/-! # datasketches-rust: verification of the frozen spec claims

Shallow Lean embedding of the block bit codec, the stateful bit packer,
the compact Theta sketch codec, the frequent-items sketch and the HLL
Array8 register bank, with the claim theorems about them. -/
import Mathlib
set_option linter.all false

/-!
# Verification of datasketches-rust core sketches

A shallow embedding of the bit-packing codec, the compact Theta sketch with its
serialization formats, the frequent-items sketch, and the HLL Array8 engine from
the `datasketches-rust` repository, together with proofs and refutations of the
specified properties.

Machine integers are embedded as `Nat`; `as u8` casts are `% 256` (`u8` below),
and `u64` arithmetic stays in `Nat` wherever the source cannot overflow.
Rust panics (assertion failures and out-of-bounds slice indexing) are modelled
by `Option`/`Except` results where a claim depends on them.
-/

/-! ## Arithmetic helper lemmas for the bit-packing proofs -/


def u8 (x : Nat) : Nat := x % 256

theorem land_mask1 (x : Nat) : x &&& 1 = x % 2 := by
  simpa using Nat.and_pow_two_sub_one_eq_mod x 1
theorem land_mask3 (x : Nat) : x &&& 3 = x % 4 := by
  simpa using Nat.and_pow_two_sub_one_eq_mod x 2
theorem land_mask7 (x : Nat) : x &&& 7 = x % 8 := by
  simpa using Nat.and_pow_two_sub_one_eq_mod x 3
theorem land_mask15 (x : Nat) : x &&& 15 = x % 16 := by
  simpa using Nat.and_pow_two_sub_one_eq_mod x 4
theorem land_mask31 (x : Nat) : x &&& 31 = x % 32 := by
  simpa using Nat.and_pow_two_sub_one_eq_mod x 5
theorem land_mask63 (x : Nat) : x &&& 63 = x % 64 := by
  simpa using Nat.and_pow_two_sub_one_eq_mod x 6
theorem land_mask127 (x : Nat) : x &&& 127 = x % 128 := by
  simpa using Nat.and_pow_two_sub_one_eq_mod x 7
theorem land_mask255 (x : Nat) : x &&& 255 = x % 256 := by
  simpa using Nat.and_pow_two_sub_one_eq_mod x 8

theorem lor_mul_pow {b : Nat} (a k : Nat) (h : b < 2 ^ k) :
    (a * 2 ^ k) ||| b = a * 2 ^ k + b := by
  apply Nat.eq_of_testBit_eq
  intro j
  rw [Nat.mul_comm a (2 ^ k), Nat.testBit_mul_pow_two_add a h, Nat.testBit_or,
    Nat.testBit_mul_pow_two]
  rcases Nat.lt_or_ge j k with hj | hj
  · simp [hj, Nat.not_le.mpr hj]
  · have hb : Nat.testBit b j = false :=
      Nat.testBit_lt_two_pow (lt_of_lt_of_le h (Nat.pow_le_pow_right (by omega) hj))
    simp [hb, hj, Nat.not_lt.mpr hj]

theorem lor_add_mul_pow {b : Nat} (x a k : Nat) (hx : x % 2 ^ k = 0) (h : b < 2 ^ k) :
    (x + a * 2 ^ k) ||| b = x + a * 2 ^ k + b := by
  have hdvd : x / 2 ^ k * 2 ^ k = x := Nat.div_mul_cancel (Nat.dvd_of_mod_eq_zero hx)
  have hx2 : x + a * 2 ^ k = (x / 2 ^ k + a) * 2 ^ k := by rw [Nat.add_mul, hdvd]
  rw [hx2, lor_mul_pow _ _ h]

theorem lor_eq_add (x y n : Nat) (hx : x % 2 ^ n = 0) (hy : y < 2 ^ n) :
    x ||| y = x + y := by
  have hdvd : x / 2 ^ n * 2 ^ n = x := Nat.div_mul_cancel (Nat.dvd_of_mod_eq_zero hx)
  calc x ||| y = (x / 2 ^ n * 2 ^ n) ||| y := by rw [hdvd]
    _ = x / 2 ^ n * 2 ^ n + y := lor_mul_pow _ _ hy
    _ = x + y := by rw [hdvd]

theorem byte_extract (v s : Nat) : u8 ((v >>> s) &&& 0xff) = v / 2 ^ s % 2 ^ 8 := by
  simp only [u8, land_mask255, Nat.shiftRight_eq_div_pow]
  omega

theorem step_top (v n s : Nat) (h : n = s + 8) (hv : v < 2 ^ n) :
    u8 ((v >>> s) &&& 0xff) <<< s = v / 2 ^ s * 2 ^ s := by
  subst h
  rw [byte_extract, Nat.shiftLeft_eq]
  have hq : v / 2 ^ s < 2 ^ 8 := by
    rw [Nat.pow_add] at hv
    exact Nat.div_lt_of_lt_mul (by omega)
  rw [Nat.mod_eq_of_lt hq]

theorem step_mid (v s8 s : Nat) (h : s8 = s + 8) :
    v / 2 ^ s8 * 2 ^ s8 ||| u8 ((v >>> s) &&& 0xff) <<< s = v / 2 ^ s * 2 ^ s := by
  subst h
  rw [byte_extract, Nat.shiftLeft_eq]
  have hx : v / 2 ^ (s + 8) * 2 ^ (s + 8) % 2 ^ (s + 8) = 0 := Nat.mul_mod_left _ _
  have hy : v / 2 ^ s % 2 ^ 8 * 2 ^ s < 2 ^ (s + 8) := by
    rw [Nat.pow_add, Nat.mul_comm (2 ^ s) (2 ^ 8)]
    exact Nat.mul_lt_mul_of_lt_of_le (Nat.mod_lt _ (by norm_num)) (le_refl _) (by positivity)
  rw [lor_eq_add _ _ (s + 8) hx hy]
  have hdiv : v / 2 ^ (s + 8) = v / 2 ^ s / 2 ^ 8 := by
    rw [Nat.pow_add, Nat.div_div_eq_div_mul]
  rw [hdiv]
  generalize v / 2 ^ s = q
  have f := Nat.div_add_mod q (2 ^ 8)
  calc q / 2 ^ 8 * 2 ^ (s + 8) + q % 2 ^ 8 * 2 ^ s
      = (2 ^ 8 * (q / 2 ^ 8) + q % 2 ^ 8) * 2 ^ s := by rw [Nat.pow_add]; ring
    _ = q * 2 ^ s := by rw [f]

theorem step_low (v : Nat) : v / 2 ^ 8 * 2 ^ 8 ||| u8 (v &&& 0xff) = v := by
  have hb : u8 (v &&& 0xff) = v % 2 ^ 8 := by
    simp only [u8, land_mask255]
    omega
  rw [hb, lor_eq_add _ _ 8 (Nat.mul_mod_left _ _) (by omega)]
  omega

theorem and_mask_eq_mod (x c : Nat) : x &&& (2 ^ c - 1) = x % 2 ^ c :=
  Nat.and_pow_two_sub_one_eq_mod x c

theorem step_first (w v : Nat) (b s1 c1 m1 : Nat) (hb : b = s1 + c1)
    (hm : m1 = 2 ^ c1 - 1) (hc : c1 ≤ 8) (hv : v < 2 ^ b) :
    (u8 ((w <<< c1) ||| ((v >>> s1) &&& m1)) &&& m1) <<< s1 = v / 2 ^ s1 * 2 ^ s1 := by
  subst hb hm
  have hr : (v >>> s1) &&& (2 ^ c1 - 1) = v / 2 ^ s1 := by
    rw [Nat.shiftRight_eq_div_pow, and_mask_eq_mod]
    have : v / 2 ^ s1 < 2 ^ c1 := by
      rw [Nat.pow_add] at hv
      exact Nat.div_lt_of_lt_mul (by omega)
    exact Nat.mod_eq_of_lt this
  rw [hr, Nat.shiftLeft_eq w c1, Nat.shiftLeft_eq, lor_mul_pow w c1 (by
    rw [Nat.pow_add] at hv
    exact Nat.div_lt_of_lt_mul (by omega))]
  have hsplit : u8 (w * 2 ^ c1 + v / 2 ^ s1) &&& (2 ^ c1 - 1) = v / 2 ^ s1 := by
    rw [and_mask_eq_mod]
    have hle : (2 : Nat) ^ c1 ∣ 2 ^ 8 := Nat.pow_dvd_pow 2 hc
    rw [u8, show (256 : Nat) = 2 ^ 8 from rfl, Nat.mod_mod_of_dvd _ hle,
      Nat.mul_comm w (2 ^ c1), Nat.mul_add_mod]
    have : v / 2 ^ s1 < 2 ^ c1 := by
      rw [Nat.pow_add] at hv
      exact Nat.div_lt_of_lt_mul (by omega)
    exact Nat.mod_eq_of_lt this
  rw [hsplit]

theorem step_last (v w : Nat) (t cm mL : Nat) (hm : mL = 2 ^ cm - 1)
    (ht : t + cm = 8) (hw : w < 2 ^ t) :
    v / 2 ^ cm * 2 ^ cm ||| (u8 (((v &&& mL) <<< t) ||| w) >>> t) &&& mL = v := by
  subst hm
  rw [and_mask_eq_mod v cm, Nat.shiftLeft_eq, lor_mul_pow _ t hw]
  have hbyte : v % 2 ^ cm * 2 ^ t + w < 256 := by
    have h1 : v % 2 ^ cm < 2 ^ cm := Nat.mod_lt _ (Nat.pos_pow_of_pos _ (by omega))
    calc v % 2 ^ cm * 2 ^ t + w < v % 2 ^ cm * 2 ^ t + 2 ^ t := by omega
      _ = (v % 2 ^ cm + 1) * 2 ^ t := by ring
      _ ≤ 2 ^ cm * 2 ^ t := Nat.mul_le_mul_right _ (by omega)
      _ = 2 ^ (cm + t) := (Nat.pow_add 2 cm t).symm
      _ = 256 := by rw [show cm + t = 8 by omega]; norm_num
  simp only [u8]
  rw [Nat.mod_eq_of_lt hbyte, Nat.shiftRight_eq_div_pow]
  have hdivt : (v % 2 ^ cm * 2 ^ t + w) / 2 ^ t = v % 2 ^ cm := by
    rw [Nat.mul_comm (v % 2 ^ cm) (2 ^ t), Nat.mul_add_div (by positivity),
      Nat.div_eq_of_lt hw, Nat.add_zero]
  rw [hdivt, and_mask_eq_mod]
  have h1 : v % 2 ^ cm < 2 ^ cm := Nat.mod_lt _ (Nat.pos_pow_of_pos _ (by omega))
  rw [Nat.mod_eq_of_lt h1, lor_eq_add _ _ cm (Nat.mul_mod_left _ _) h1,
    Nat.mul_comm (v / 2 ^ cm) (2 ^ cm)]
  exact Nat.div_add_mod v (2 ^ cm)

/-! ## The unrolled fixed-width block codec (src/datasketches/src/theta/bit_pack.rs)
Each `pack_bits_N`/`unpack_bits_N` transliterates the corresponding Rust function;
`bytes[k] = e as u8` becomes the `k`-th element of the produced list, and
`bytes[k]` reads become `bs.getD k 0` (in-bounds under the dispatcher guard).
The `unpack_pack_bits_N` lemmas prove the per-width round trip. -/

def pack_bits_1 (v0 v1 v2 v3 v4 v5 v6 v7 : Nat) : List Nat :=
  [ u8 (((((v0) &&& 0x1) <<< 7) ||| (((v1) &&& 0x1) <<< 6) ||| (((v2) &&& 0x1) <<< 5) ||| (((v3) &&& 0x1) <<< 4) ||| (((v4) &&& 0x1) <<< 3) ||| (((v5) &&& 0x1) <<< 2) ||| (((v6) &&& 0x1) <<< 1) ||| ((v7) &&& 0x1))) ]

def unpack_bits_1 (bs : List Nat) : List Nat :=
  [ (((bs.getD 0 0) >>> 7) &&& 0x1),
    (((bs.getD 0 0) >>> 6) &&& 0x1),
    (((bs.getD 0 0) >>> 5) &&& 0x1),
    (((bs.getD 0 0) >>> 4) &&& 0x1),
    (((bs.getD 0 0) >>> 3) &&& 0x1),
    (((bs.getD 0 0) >>> 2) &&& 0x1),
    (((bs.getD 0 0) >>> 1) &&& 0x1),
    (((bs.getD 0 0)) &&& 0x1) ]

def pack_bits_2 (v0 v1 v2 v3 v4 v5 v6 v7 : Nat) : List Nat :=
  [ u8 (((((v0) &&& 0x3) <<< 6) ||| (((v1) &&& 0x3) <<< 4) ||| (((v2) &&& 0x3) <<< 2) ||| ((v3) &&& 0x3))),
    u8 (((((v4) &&& 0x3) <<< 6) ||| (((v5) &&& 0x3) <<< 4) ||| (((v6) &&& 0x3) <<< 2) ||| ((v7) &&& 0x3))) ]

def unpack_bits_2 (bs : List Nat) : List Nat :=
  [ (((bs.getD 0 0) >>> 6) &&& 0x3),
    (((bs.getD 0 0) >>> 4) &&& 0x3),
    (((bs.getD 0 0) >>> 2) &&& 0x3),
    (((bs.getD 0 0)) &&& 0x3),
    (((bs.getD 1 0) >>> 6) &&& 0x3),
    (((bs.getD 1 0) >>> 4) &&& 0x3),
    (((bs.getD 1 0) >>> 2) &&& 0x3),
    (((bs.getD 1 0)) &&& 0x3) ]

def pack_bits_3 (v0 v1 v2 v3 v4 v5 v6 v7 : Nat) : List Nat :=
  [ u8 (((((v0) &&& 0x7) <<< 5) ||| (((v1) &&& 0x7) <<< 2) ||| ((v2 >>> 1) &&& 0x3))),
    u8 (((((v2) &&& 0x1) <<< 7) ||| (((v3) &&& 0x7) <<< 4) ||| (((v4) &&& 0x7) <<< 1) ||| ((v5 >>> 2) &&& 0x1))),
    u8 (((((v5) &&& 0x3) <<< 6) ||| (((v6) &&& 0x7) <<< 3) ||| ((v7) &&& 0x7))) ]

def unpack_bits_3 (bs : List Nat) : List Nat :=
  [ (((bs.getD 0 0) >>> 5) &&& 0x7),
    (((bs.getD 0 0) >>> 2) &&& 0x7),
    (((((bs.getD 0 0)) &&& 0x3)) <<< 1) ||| ((((bs.getD 1 0) >>> 7) &&& 0x1)),
    (((bs.getD 1 0) >>> 4) &&& 0x7),
    (((bs.getD 1 0) >>> 1) &&& 0x7),
    (((((bs.getD 1 0)) &&& 0x1)) <<< 2) ||| ((((bs.getD 2 0) >>> 6) &&& 0x3)),
    (((bs.getD 2 0) >>> 3) &&& 0x7),
    (((bs.getD 2 0)) &&& 0x7) ]

def pack_bits_4 (v0 v1 v2 v3 v4 v5 v6 v7 : Nat) : List Nat :=
  [ u8 (((((v0) &&& 0xf) <<< 4) ||| ((v1) &&& 0xf))),
    u8 (((((v2) &&& 0xf) <<< 4) ||| ((v3) &&& 0xf))),
    u8 (((((v4) &&& 0xf) <<< 4) ||| ((v5) &&& 0xf))),
    u8 (((((v6) &&& 0xf) <<< 4) ||| ((v7) &&& 0xf))) ]

def unpack_bits_4 (bs : List Nat) : List Nat :=
  [ (((bs.getD 0 0) >>> 4) &&& 0xf),
    (((bs.getD 0 0)) &&& 0xf),
    (((bs.getD 1 0) >>> 4) &&& 0xf),
    (((bs.getD 1 0)) &&& 0xf),
    (((bs.getD 2 0) >>> 4) &&& 0xf),
    (((bs.getD 2 0)) &&& 0xf),
    (((bs.getD 3 0) >>> 4) &&& 0xf),
    (((bs.getD 3 0)) &&& 0xf) ]

def pack_bits_5 (v0 v1 v2 v3 v4 v5 v6 v7 : Nat) : List Nat :=
  [ u8 (((((v0) &&& 0x1f) <<< 3) ||| ((v1 >>> 2) &&& 0x7))),
    u8 (((((v1) &&& 0x3) <<< 6) ||| (((v2) &&& 0x1f) <<< 1) ||| ((v3 >>> 4) &&& 0x1))),
    u8 (((((v3) &&& 0xf) <<< 4) ||| ((v4 >>> 1) &&& 0xf))),
    u8 (((((v4) &&& 0x1) <<< 7) ||| (((v5) &&& 0x1f) <<< 2) ||| ((v6 >>> 3) &&& 0x3))),
    u8 (((((v6) &&& 0x7) <<< 5) ||| ((v7) &&& 0x1f))) ]

def unpack_bits_5 (bs : List Nat) : List Nat :=
  [ (((bs.getD 0 0) >>> 3) &&& 0x1f),
    (((((bs.getD 0 0)) &&& 0x7)) <<< 2) ||| ((((bs.getD 1 0) >>> 6) &&& 0x3)),
    (((bs.getD 1 0) >>> 1) &&& 0x1f),
    (((((bs.getD 1 0)) &&& 0x1)) <<< 4) ||| ((((bs.getD 2 0) >>> 4) &&& 0xf)),
    (((((bs.getD 2 0)) &&& 0xf)) <<< 1) ||| ((((bs.getD 3 0) >>> 7) &&& 0x1)),
    (((bs.getD 3 0) >>> 2) &&& 0x1f),
    (((((bs.getD 3 0)) &&& 0x3)) <<< 3) ||| ((((bs.getD 4 0) >>> 5) &&& 0x7)),
    (((bs.getD 4 0)) &&& 0x1f) ]

def pack_bits_6 (v0 v1 v2 v3 v4 v5 v6 v7 : Nat) : List Nat :=
  [ u8 (((((v0) &&& 0x3f) <<< 2) ||| ((v1 >>> 4) &&& 0x3))),
    u8 (((((v1) &&& 0xf) <<< 4) ||| ((v2 >>> 2) &&& 0xf))),
    u8 (((((v2) &&& 0x3) <<< 6) ||| ((v3) &&& 0x3f))),
    u8 (((((v4) &&& 0x3f) <<< 2) ||| ((v5 >>> 4) &&& 0x3))),
    u8 (((((v5) &&& 0xf) <<< 4) ||| ((v6 >>> 2) &&& 0xf))),
    u8 (((((v6) &&& 0x3) <<< 6) ||| ((v7) &&& 0x3f))) ]

def unpack_bits_6 (bs : List Nat) : List Nat :=
  [ (((bs.getD 0 0) >>> 2) &&& 0x3f),
    (((((bs.getD 0 0)) &&& 0x3)) <<< 4) ||| ((((bs.getD 1 0) >>> 4) &&& 0xf)),
    (((((bs.getD 1 0)) &&& 0xf)) <<< 2) ||| ((((bs.getD 2 0) >>> 6) &&& 0x3)),
    (((bs.getD 2 0)) &&& 0x3f),
    (((bs.getD 3 0) >>> 2) &&& 0x3f),
    (((((bs.getD 3 0)) &&& 0x3)) <<< 4) ||| ((((bs.getD 4 0) >>> 4) &&& 0xf)),
    (((((bs.getD 4 0)) &&& 0xf)) <<< 2) ||| ((((bs.getD 5 0) >>> 6) &&& 0x3)),
    (((bs.getD 5 0)) &&& 0x3f) ]

def pack_bits_7 (v0 v1 v2 v3 v4 v5 v6 v7 : Nat) : List Nat :=
  [ u8 (((((v0) &&& 0x7f) <<< 1) ||| ((v1 >>> 6) &&& 0x1))),
    u8 (((((v1) &&& 0x3f) <<< 2) ||| ((v2 >>> 5) &&& 0x3))),
    u8 (((((v2) &&& 0x1f) <<< 3) ||| ((v3 >>> 4) &&& 0x7))),
    u8 (((((v3) &&& 0xf) <<< 4) ||| ((v4 >>> 3) &&& 0xf))),
    u8 (((((v4) &&& 0x7) <<< 5) ||| ((v5 >>> 2) &&& 0x1f))),
    u8 (((((v5) &&& 0x3) <<< 6) ||| ((v6 >>> 1) &&& 0x3f))),
    u8 (((((v6) &&& 0x1) <<< 7) ||| ((v7) &&& 0x7f))) ]

def unpack_bits_7 (bs : List Nat) : List Nat :=
  [ (((bs.getD 0 0) >>> 1) &&& 0x7f),
    (((((bs.getD 0 0)) &&& 0x1)) <<< 6) ||| ((((bs.getD 1 0) >>> 2) &&& 0x3f)),
    (((((bs.getD 1 0)) &&& 0x3)) <<< 5) ||| ((((bs.getD 2 0) >>> 3) &&& 0x1f)),
    (((((bs.getD 2 0)) &&& 0x7)) <<< 4) ||| ((((bs.getD 3 0) >>> 4) &&& 0xf)),
    (((((bs.getD 3 0)) &&& 0xf)) <<< 3) ||| ((((bs.getD 4 0) >>> 5) &&& 0x7)),
    (((((bs.getD 4 0)) &&& 0x1f)) <<< 2) ||| ((((bs.getD 5 0) >>> 6) &&& 0x3)),
    (((((bs.getD 5 0)) &&& 0x3f)) <<< 1) ||| ((((bs.getD 6 0) >>> 7) &&& 0x1)),
    (((bs.getD 6 0)) &&& 0x7f) ]

def pack_bits_8 (v0 v1 v2 v3 v4 v5 v6 v7 : Nat) : List Nat :=
  [ u8 (((v0) &&& 0xff)),
    u8 (((v1) &&& 0xff)),
    u8 (((v2) &&& 0xff)),
    u8 (((v3) &&& 0xff)),
    u8 (((v4) &&& 0xff)),
    u8 (((v5) &&& 0xff)),
    u8 (((v6) &&& 0xff)),
    u8 (((v7) &&& 0xff)) ]

def unpack_bits_8 (bs : List Nat) : List Nat :=
  [ ((bs.getD 0 0)),
    ((bs.getD 1 0)),
    ((bs.getD 2 0)),
    ((bs.getD 3 0)),
    ((bs.getD 4 0)),
    ((bs.getD 5 0)),
    ((bs.getD 6 0)),
    ((bs.getD 7 0)) ]

def pack_bits_9 (v0 v1 v2 v3 v4 v5 v6 v7 : Nat) : List Nat :=
  [ u8 (((v0 >>> 1) &&& 0xff)),
    u8 (((((v0) &&& 0x1) <<< 7) ||| ((v1 >>> 2) &&& 0x7f))),
    u8 (((((v1) &&& 0x3) <<< 6) ||| ((v2 >>> 3) &&& 0x3f))),
    u8 (((((v2) &&& 0x7) <<< 5) ||| ((v3 >>> 4) &&& 0x1f))),
    u8 (((((v3) &&& 0xf) <<< 4) ||| ((v4 >>> 5) &&& 0xf))),
    u8 (((((v4) &&& 0x1f) <<< 3) ||| ((v5 >>> 6) &&& 0x7))),
    u8 (((((v5) &&& 0x3f) <<< 2) ||| ((v6 >>> 7) &&& 0x3))),
    u8 (((((v6) &&& 0x7f) <<< 1) ||| ((v7 >>> 8) &&& 0x1))),
    u8 (((v7) &&& 0xff)) ]

def unpack_bits_9 (bs : List Nat) : List Nat :=
  [ ((((bs.getD 0 0))) <<< 1) ||| ((((bs.getD 1 0) >>> 7) &&& 0x1)),
    (((((bs.getD 1 0)) &&& 0x7f)) <<< 2) ||| ((((bs.getD 2 0) >>> 6) &&& 0x3)),
    (((((bs.getD 2 0)) &&& 0x3f)) <<< 3) ||| ((((bs.getD 3 0) >>> 5) &&& 0x7)),
    (((((bs.getD 3 0)) &&& 0x1f)) <<< 4) ||| ((((bs.getD 4 0) >>> 4) &&& 0xf)),
    (((((bs.getD 4 0)) &&& 0xf)) <<< 5) ||| ((((bs.getD 5 0) >>> 3) &&& 0x1f)),
    (((((bs.getD 5 0)) &&& 0x7)) <<< 6) ||| ((((bs.getD 6 0) >>> 2) &&& 0x3f)),
    (((((bs.getD 6 0)) &&& 0x3)) <<< 7) ||| ((((bs.getD 7 0) >>> 1) &&& 0x7f)),
    (((((bs.getD 7 0)) &&& 0x1)) <<< 8) ||| (((bs.getD 8 0))) ]

def pack_bits_10 (v0 v1 v2 v3 v4 v5 v6 v7 : Nat) : List Nat :=
  [ u8 (((v0 >>> 2) &&& 0xff)),
    u8 (((((v0) &&& 0x3) <<< 6) ||| ((v1 >>> 4) &&& 0x3f))),
    u8 (((((v1) &&& 0xf) <<< 4) ||| ((v2 >>> 6) &&& 0xf))),
    u8 (((((v2) &&& 0x3f) <<< 2) ||| ((v3 >>> 8) &&& 0x3))),
    u8 (((v3) &&& 0xff)),
    u8 (((v4 >>> 2) &&& 0xff)),
    u8 (((((v4) &&& 0x3) <<< 6) ||| ((v5 >>> 4) &&& 0x3f))),
    u8 (((((v5) &&& 0xf) <<< 4) ||| ((v6 >>> 6) &&& 0xf))),
    u8 (((((v6) &&& 0x3f) <<< 2) ||| ((v7 >>> 8) &&& 0x3))),
    u8 (((v7) &&& 0xff)) ]

def unpack_bits_10 (bs : List Nat) : List Nat :=
  [ ((((bs.getD 0 0))) <<< 2) ||| ((((bs.getD 1 0) >>> 6) &&& 0x3)),
    (((((bs.getD 1 0)) &&& 0x3f)) <<< 4) ||| ((((bs.getD 2 0) >>> 4) &&& 0xf)),
    (((((bs.getD 2 0)) &&& 0xf)) <<< 6) ||| ((((bs.getD 3 0) >>> 2) &&& 0x3f)),
    (((((bs.getD 3 0)) &&& 0x3)) <<< 8) ||| (((bs.getD 4 0))),
    ((((bs.getD 5 0))) <<< 2) ||| ((((bs.getD 6 0) >>> 6) &&& 0x3)),
    (((((bs.getD 6 0)) &&& 0x3f)) <<< 4) ||| ((((bs.getD 7 0) >>> 4) &&& 0xf)),
    (((((bs.getD 7 0)) &&& 0xf)) <<< 6) ||| ((((bs.getD 8 0) >>> 2) &&& 0x3f)),
    (((((bs.getD 8 0)) &&& 0x3)) <<< 8) ||| (((bs.getD 9 0))) ]

def pack_bits_11 (v0 v1 v2 v3 v4 v5 v6 v7 : Nat) : List Nat :=
  [ u8 (((v0 >>> 3) &&& 0xff)),
    u8 (((((v0) &&& 0x7) <<< 5) ||| ((v1 >>> 6) &&& 0x1f))),
    u8 (((((v1) &&& 0x3f) <<< 2) ||| ((v2 >>> 9) &&& 0x3))),
    u8 (((v2 >>> 1) &&& 0xff)),
    u8 (((((v2) &&& 0x1) <<< 7) ||| ((v3 >>> 4) &&& 0x7f))),
    u8 (((((v3) &&& 0xf) <<< 4) ||| ((v4 >>> 7) &&& 0xf))),
    u8 (((((v4) &&& 0x7f) <<< 1) ||| ((v5 >>> 10) &&& 0x1))),
    u8 (((v5 >>> 2) &&& 0xff)),
    u8 (((((v5) &&& 0x3) <<< 6) ||| ((v6 >>> 5) &&& 0x3f))),
    u8 (((((v6) &&& 0x1f) <<< 3) ||| ((v7 >>> 8) &&& 0x7))),
    u8 (((v7) &&& 0xff)) ]

def unpack_bits_11 (bs : List Nat) : List Nat :=
  [ ((((bs.getD 0 0))) <<< 3) ||| ((((bs.getD 1 0) >>> 5) &&& 0x7)),
    (((((bs.getD 1 0)) &&& 0x1f)) <<< 6) ||| ((((bs.getD 2 0) >>> 2) &&& 0x3f)),
    (((((bs.getD 2 0)) &&& 0x3)) <<< 9) ||| ((((bs.getD 3 0))) <<< 1) ||| ((((bs.getD 4 0) >>> 7) &&& 0x1)),
    (((((bs.getD 4 0)) &&& 0x7f)) <<< 4) ||| ((((bs.getD 5 0) >>> 4) &&& 0xf)),
    (((((bs.getD 5 0)) &&& 0xf)) <<< 7) ||| ((((bs.getD 6 0) >>> 1) &&& 0x7f)),
    (((((bs.getD 6 0)) &&& 0x1)) <<< 10) ||| ((((bs.getD 7 0))) <<< 2) ||| ((((bs.getD 8 0) >>> 6) &&& 0x3)),
    (((((bs.getD 8 0)) &&& 0x3f)) <<< 5) ||| ((((bs.getD 9 0) >>> 3) &&& 0x1f)),
    (((((bs.getD 9 0)) &&& 0x7)) <<< 8) ||| (((bs.getD 10 0))) ]

def pack_bits_12 (v0 v1 v2 v3 v4 v5 v6 v7 : Nat) : List Nat :=
  [ u8 (((v0 >>> 4) &&& 0xff)),
    u8 (((((v0) &&& 0xf) <<< 4) ||| ((v1 >>> 8) &&& 0xf))),
    u8 (((v1) &&& 0xff)),
    u8 (((v2 >>> 4) &&& 0xff)),
    u8 (((((v2) &&& 0xf) <<< 4) ||| ((v3 >>> 8) &&& 0xf))),
    u8 (((v3) &&& 0xff)),
    u8 (((v4 >>> 4) &&& 0xff)),
    u8 (((((v4) &&& 0xf) <<< 4) ||| ((v5 >>> 8) &&& 0xf))),
    u8 (((v5) &&& 0xff)),
    u8 (((v6 >>> 4) &&& 0xff)),
    u8 (((((v6) &&& 0xf) <<< 4) ||| ((v7 >>> 8) &&& 0xf))),
    u8 (((v7) &&& 0xff)) ]

def unpack_bits_12 (bs : List Nat) : List Nat :=
  [ ((((bs.getD 0 0))) <<< 4) ||| ((((bs.getD 1 0) >>> 4) &&& 0xf)),
    (((((bs.getD 1 0)) &&& 0xf)) <<< 8) ||| (((bs.getD 2 0))),
    ((((bs.getD 3 0))) <<< 4) ||| ((((bs.getD 4 0) >>> 4) &&& 0xf)),
    (((((bs.getD 4 0)) &&& 0xf)) <<< 8) ||| (((bs.getD 5 0))),
    ((((bs.getD 6 0))) <<< 4) ||| ((((bs.getD 7 0) >>> 4) &&& 0xf)),
    (((((bs.getD 7 0)) &&& 0xf)) <<< 8) ||| (((bs.getD 8 0))),
    ((((bs.getD 9 0))) <<< 4) ||| ((((bs.getD 10 0) >>> 4) &&& 0xf)),
    (((((bs.getD 10 0)) &&& 0xf)) <<< 8) ||| (((bs.getD 11 0))) ]

def pack_bits_13 (v0 v1 v2 v3 v4 v5 v6 v7 : Nat) : List Nat :=
  [ u8 (((v0 >>> 5) &&& 0xff)),
    u8 (((((v0) &&& 0x1f) <<< 3) ||| ((v1 >>> 10) &&& 0x7))),
    u8 (((v1 >>> 2) &&& 0xff)),
    u8 (((((v1) &&& 0x3) <<< 6) ||| ((v2 >>> 7) &&& 0x3f))),
    u8 (((((v2) &&& 0x7f) <<< 1) ||| ((v3 >>> 12) &&& 0x1))),
    u8 (((v3 >>> 4) &&& 0xff)),
    u8 (((((v3) &&& 0xf) <<< 4) ||| ((v4 >>> 9) &&& 0xf))),
    u8 (((v4 >>> 1) &&& 0xff)),
    u8 (((((v4) &&& 0x1) <<< 7) ||| ((v5 >>> 6) &&& 0x7f))),
    u8 (((((v5) &&& 0x3f) <<< 2) ||| ((v6 >>> 11) &&& 0x3))),
    u8 (((v6 >>> 3) &&& 0xff)),
    u8 (((((v6) &&& 0x7) <<< 5) ||| ((v7 >>> 8) &&& 0x1f))),
    u8 (((v7) &&& 0xff)) ]

def unpack_bits_13 (bs : List Nat) : List Nat :=
  [ ((((bs.getD 0 0))) <<< 5) ||| ((((bs.getD 1 0) >>> 3) &&& 0x1f)),
    (((((bs.getD 1 0)) &&& 0x7)) <<< 10) ||| ((((bs.getD 2 0))) <<< 2) ||| ((((bs.getD 3 0) >>> 6) &&& 0x3)),
    (((((bs.getD 3 0)) &&& 0x3f)) <<< 7) ||| ((((bs.getD 4 0) >>> 1) &&& 0x7f)),
    (((((bs.getD 4 0)) &&& 0x1)) <<< 12) ||| ((((bs.getD 5 0))) <<< 4) ||| ((((bs.getD 6 0) >>> 4) &&& 0xf)),
    (((((bs.getD 6 0)) &&& 0xf)) <<< 9) ||| ((((bs.getD 7 0))) <<< 1) ||| ((((bs.getD 8 0) >>> 7) &&& 0x1)),
    (((((bs.getD 8 0)) &&& 0x7f)) <<< 6) ||| ((((bs.getD 9 0) >>> 2) &&& 0x3f)),
    (((((bs.getD 9 0)) &&& 0x3)) <<< 11) ||| ((((bs.getD 10 0))) <<< 3) ||| ((((bs.getD 11 0) >>> 5) &&& 0x7)),
    (((((bs.getD 11 0)) &&& 0x1f)) <<< 8) ||| (((bs.getD 12 0))) ]

def pack_bits_14 (v0 v1 v2 v3 v4 v5 v6 v7 : Nat) : List Nat :=
  [ u8 (((v0 >>> 6) &&& 0xff)),
    u8 (((((v0) &&& 0x3f) <<< 2) ||| ((v1 >>> 12) &&& 0x3))),
    u8 (((v1 >>> 4) &&& 0xff)),
    u8 (((((v1) &&& 0xf) <<< 4) ||| ((v2 >>> 10) &&& 0xf))),
    u8 (((v2 >>> 2) &&& 0xff)),
    u8 (((((v2) &&& 0x3) <<< 6) ||| ((v3 >>> 8) &&& 0x3f))),
    u8 (((v3) &&& 0xff)),
    u8 (((v4 >>> 6) &&& 0xff)),
    u8 (((((v4) &&& 0x3f) <<< 2) ||| ((v5 >>> 12) &&& 0x3))),
    u8 (((v5 >>> 4) &&& 0xff)),
    u8 (((((v5) &&& 0xf) <<< 4) ||| ((v6 >>> 10) &&& 0xf))),
    u8 (((v6 >>> 2) &&& 0xff)),
    u8 (((((v6) &&& 0x3) <<< 6) ||| ((v7 >>> 8) &&& 0x3f))),
    u8 (((v7) &&& 0xff)) ]

def unpack_bits_14 (bs : List Nat) : List Nat :=
  [ ((((bs.getD 0 0))) <<< 6) ||| ((((bs.getD 1 0) >>> 2) &&& 0x3f)),
    (((((bs.getD 1 0)) &&& 0x3)) <<< 12) ||| ((((bs.getD 2 0))) <<< 4) ||| ((((bs.getD 3 0) >>> 4) &&& 0xf)),
    (((((bs.getD 3 0)) &&& 0xf)) <<< 10) ||| ((((bs.getD 4 0))) <<< 2) ||| ((((bs.getD 5 0) >>> 6) &&& 0x3)),
    (((((bs.getD 5 0)) &&& 0x3f)) <<< 8) ||| (((bs.getD 6 0))),
    ((((bs.getD 7 0))) <<< 6) ||| ((((bs.getD 8 0) >>> 2) &&& 0x3f)),
    (((((bs.getD 8 0)) &&& 0x3)) <<< 12) ||| ((((bs.getD 9 0))) <<< 4) ||| ((((bs.getD 10 0) >>> 4) &&& 0xf)),
    (((((bs.getD 10 0)) &&& 0xf)) <<< 10) ||| ((((bs.getD 11 0))) <<< 2) ||| ((((bs.getD 12 0) >>> 6) &&& 0x3)),
    (((((bs.getD 12 0)) &&& 0x3f)) <<< 8) ||| (((bs.getD 13 0))) ]

def pack_bits_15 (v0 v1 v2 v3 v4 v5 v6 v7 : Nat) : List Nat :=
  [ u8 (((v0 >>> 7) &&& 0xff)),
    u8 (((((v0) &&& 0x7f) <<< 1) ||| ((v1 >>> 14) &&& 0x1))),
    u8 (((v1 >>> 6) &&& 0xff)),
    u8 (((((v1) &&& 0x3f) <<< 2) ||| ((v2 >>> 13) &&& 0x3))),
    u8 (((v2 >>> 5) &&& 0xff)),
    u8 (((((v2) &&& 0x1f) <<< 3) ||| ((v3 >>> 12) &&& 0x7))),
    u8 (((v3 >>> 4) &&& 0xff)),
    u8 (((((v3) &&& 0xf) <<< 4) ||| ((v4 >>> 11) &&& 0xf))),
    u8 (((v4 >>> 3) &&& 0xff)),
    u8 (((((v4) &&& 0x7) <<< 5) ||| ((v5 >>> 10) &&& 0x1f))),
    u8 (((v5 >>> 2) &&& 0xff)),
    u8 (((((v5) &&& 0x3) <<< 6) ||| ((v6 >>> 9) &&& 0x3f))),
    u8 (((v6 >>> 1) &&& 0xff)),
    u8 (((((v6) &&& 0x1) <<< 7) ||| ((v7 >>> 8) &&& 0x7f))),
    u8 (((v7) &&& 0xff)) ]

def unpack_bits_15 (bs : List Nat) : List Nat :=
  [ ((((bs.getD 0 0))) <<< 7) ||| ((((bs.getD 1 0) >>> 1) &&& 0x7f)),
    (((((bs.getD 1 0)) &&& 0x1)) <<< 14) ||| ((((bs.getD 2 0))) <<< 6) ||| ((((bs.getD 3 0) >>> 2) &&& 0x3f)),
    (((((bs.getD 3 0)) &&& 0x3)) <<< 13) ||| ((((bs.getD 4 0))) <<< 5) ||| ((((bs.getD 5 0) >>> 3) &&& 0x1f)),
    (((((bs.getD 5 0)) &&& 0x7)) <<< 12) ||| ((((bs.getD 6 0))) <<< 4) ||| ((((bs.getD 7 0) >>> 4) &&& 0xf)),
    (((((bs.getD 7 0)) &&& 0xf)) <<< 11) ||| ((((bs.getD 8 0))) <<< 3) ||| ((((bs.getD 9 0) >>> 5) &&& 0x7)),
    (((((bs.getD 9 0)) &&& 0x1f)) <<< 10) ||| ((((bs.getD 10 0))) <<< 2) ||| ((((bs.getD 11 0) >>> 6) &&& 0x3)),
    (((((bs.getD 11 0)) &&& 0x3f)) <<< 9) ||| ((((bs.getD 12 0))) <<< 1) ||| ((((bs.getD 13 0) >>> 7) &&& 0x1)),
    (((((bs.getD 13 0)) &&& 0x7f)) <<< 8) ||| (((bs.getD 14 0))) ]

def pack_bits_16 (v0 v1 v2 v3 v4 v5 v6 v7 : Nat) : List Nat :=
  [ u8 (((v0 >>> 8) &&& 0xff)),
    u8 (((v0) &&& 0xff)),
    u8 (((v1 >>> 8) &&& 0xff)),
    u8 (((v1) &&& 0xff)),
    u8 (((v2 >>> 8) &&& 0xff)),
    u8 (((v2) &&& 0xff)),
    u8 (((v3 >>> 8) &&& 0xff)),
    u8 (((v3) &&& 0xff)),
    u8 (((v4 >>> 8) &&& 0xff)),
    u8 (((v4) &&& 0xff)),
    u8 (((v5 >>> 8) &&& 0xff)),
    u8 (((v5) &&& 0xff)),
    u8 (((v6 >>> 8) &&& 0xff)),
    u8 (((v6) &&& 0xff)),
    u8 (((v7 >>> 8) &&& 0xff)),
    u8 (((v7) &&& 0xff)) ]

def unpack_bits_16 (bs : List Nat) : List Nat :=
  [ ((((bs.getD 0 0))) <<< 8) ||| (((bs.getD 1 0))),
    ((((bs.getD 2 0))) <<< 8) ||| (((bs.getD 3 0))),
    ((((bs.getD 4 0))) <<< 8) ||| (((bs.getD 5 0))),
    ((((bs.getD 6 0))) <<< 8) ||| (((bs.getD 7 0))),
    ((((bs.getD 8 0))) <<< 8) ||| (((bs.getD 9 0))),
    ((((bs.getD 10 0))) <<< 8) ||| (((bs.getD 11 0))),
    ((((bs.getD 12 0))) <<< 8) ||| (((bs.getD 13 0))),
    ((((bs.getD 14 0))) <<< 8) ||| (((bs.getD 15 0))) ]

def pack_bits_17 (v0 v1 v2 v3 v4 v5 v6 v7 : Nat) : List Nat :=
  [ u8 (((v0 >>> 9) &&& 0xff)),
    u8 (((v0 >>> 1) &&& 0xff)),
    u8 (((((v0) &&& 0x1) <<< 7) ||| ((v1 >>> 10) &&& 0x7f))),
    u8 (((v1 >>> 2) &&& 0xff)),
    u8 (((((v1) &&& 0x3) <<< 6) ||| ((v2 >>> 11) &&& 0x3f))),
    u8 (((v2 >>> 3) &&& 0xff)),
    u8 (((((v2) &&& 0x7) <<< 5) ||| ((v3 >>> 12) &&& 0x1f))),
    u8 (((v3 >>> 4) &&& 0xff)),
    u8 (((((v3) &&& 0xf) <<< 4) ||| ((v4 >>> 13) &&& 0xf))),
    u8 (((v4 >>> 5) &&& 0xff)),
    u8 (((((v4) &&& 0x1f) <<< 3) ||| ((v5 >>> 14) &&& 0x7))),
    u8 (((v5 >>> 6) &&& 0xff)),
    u8 (((((v5) &&& 0x3f) <<< 2) ||| ((v6 >>> 15) &&& 0x3))),
    u8 (((v6 >>> 7) &&& 0xff)),
    u8 (((((v6) &&& 0x7f) <<< 1) ||| ((v7 >>> 16) &&& 0x1))),
    u8 (((v7 >>> 8) &&& 0xff)),
    u8 (((v7) &&& 0xff)) ]

def unpack_bits_17 (bs : List Nat) : List Nat :=
  [ ((((bs.getD 0 0))) <<< 9) ||| ((((bs.getD 1 0))) <<< 1) ||| ((((bs.getD 2 0) >>> 7) &&& 0x1)),
    (((((bs.getD 2 0)) &&& 0x7f)) <<< 10) ||| ((((bs.getD 3 0))) <<< 2) ||| ((((bs.getD 4 0) >>> 6) &&& 0x3)),
    (((((bs.getD 4 0)) &&& 0x3f)) <<< 11) ||| ((((bs.getD 5 0))) <<< 3) ||| ((((bs.getD 6 0) >>> 5) &&& 0x7)),
    (((((bs.getD 6 0)) &&& 0x1f)) <<< 12) ||| ((((bs.getD 7 0))) <<< 4) ||| ((((bs.getD 8 0) >>> 4) &&& 0xf)),
    (((((bs.getD 8 0)) &&& 0xf)) <<< 13) ||| ((((bs.getD 9 0))) <<< 5) ||| ((((bs.getD 10 0) >>> 3) &&& 0x1f)),
    (((((bs.getD 10 0)) &&& 0x7)) <<< 14) ||| ((((bs.getD 11 0))) <<< 6) ||| ((((bs.getD 12 0) >>> 2) &&& 0x3f)),
    (((((bs.getD 12 0)) &&& 0x3)) <<< 15) ||| ((((bs.getD 13 0))) <<< 7) ||| ((((bs.getD 14 0) >>> 1) &&& 0x7f)),
    (((((bs.getD 14 0)) &&& 0x1)) <<< 16) ||| ((((bs.getD 15 0))) <<< 8) ||| (((bs.getD 16 0))) ]

def pack_bits_18 (v0 v1 v2 v3 v4 v5 v6 v7 : Nat) : List Nat :=
  [ u8 (((v0 >>> 10) &&& 0xff)),
    u8 (((v0 >>> 2) &&& 0xff)),
    u8 (((((v0) &&& 0x3) <<< 6) ||| ((v1 >>> 12) &&& 0x3f))),
    u8 (((v1 >>> 4) &&& 0xff)),
    u8 (((((v1) &&& 0xf) <<< 4) ||| ((v2 >>> 14) &&& 0xf))),
    u8 (((v2 >>> 6) &&& 0xff)),
    u8 (((((v2) &&& 0x3f) <<< 2) ||| ((v3 >>> 16) &&& 0x3))),
    u8 (((v3 >>> 8) &&& 0xff)),
    u8 (((v3) &&& 0xff)),
    u8 (((v4 >>> 10) &&& 0xff)),
    u8 (((v4 >>> 2) &&& 0xff)),
    u8 (((((v4) &&& 0x3) <<< 6) ||| ((v5 >>> 12) &&& 0x3f))),
    u8 (((v5 >>> 4) &&& 0xff)),
    u8 (((((v5) &&& 0xf) <<< 4) ||| ((v6 >>> 14) &&& 0xf))),
    u8 (((v6 >>> 6) &&& 0xff)),
    u8 (((((v6) &&& 0x3f) <<< 2) ||| ((v7 >>> 16) &&& 0x3))),
    u8 (((v7 >>> 8) &&& 0xff)),
    u8 (((v7) &&& 0xff)) ]

def unpack_bits_18 (bs : List Nat) : List Nat :=
  [ ((((bs.getD 0 0))) <<< 10) ||| ((((bs.getD 1 0))) <<< 2) ||| ((((bs.getD 2 0) >>> 6) &&& 0x3)),
    (((((bs.getD 2 0)) &&& 0x3f)) <<< 12) ||| ((((bs.getD 3 0))) <<< 4) ||| ((((bs.getD 4 0) >>> 4) &&& 0xf)),
    (((((bs.getD 4 0)) &&& 0xf)) <<< 14) ||| ((((bs.getD 5 0))) <<< 6) ||| ((((bs.getD 6 0) >>> 2) &&& 0x3f)),
    (((((bs.getD 6 0)) &&& 0x3)) <<< 16) ||| ((((bs.getD 7 0))) <<< 8) ||| (((bs.getD 8 0))),
    ((((bs.getD 9 0))) <<< 10) ||| ((((bs.getD 10 0))) <<< 2) ||| ((((bs.getD 11 0) >>> 6) &&& 0x3)),
    (((((bs.getD 11 0)) &&& 0x3f)) <<< 12) ||| ((((bs.getD 12 0))) <<< 4) ||| ((((bs.getD 13 0) >>> 4) &&& 0xf)),
    (((((bs.getD 13 0)) &&& 0xf)) <<< 14) ||| ((((bs.getD 14 0))) <<< 6) ||| ((((bs.getD 15 0) >>> 2) &&& 0x3f)),
    (((((bs.getD 15 0)) &&& 0x3)) <<< 16) ||| ((((bs.getD 16 0))) <<< 8) ||| (((bs.getD 17 0))) ]

def pack_bits_19 (v0 v1 v2 v3 v4 v5 v6 v7 : Nat) : List Nat :=
  [ u8 (((v0 >>> 11) &&& 0xff)),
    u8 (((v0 >>> 3) &&& 0xff)),
    u8 (((((v0) &&& 0x7) <<< 5) ||| ((v1 >>> 14) &&& 0x1f))),
    u8 (((v1 >>> 6) &&& 0xff)),
    u8 (((((v1) &&& 0x3f) <<< 2) ||| ((v2 >>> 17) &&& 0x3))),
    u8 (((v2 >>> 9) &&& 0xff)),
    u8 (((v2 >>> 1) &&& 0xff)),
    u8 (((((v2) &&& 0x1) <<< 7) ||| ((v3 >>> 12) &&& 0x7f))),
    u8 (((v3 >>> 4) &&& 0xff)),
    u8 (((((v3) &&& 0xf) <<< 4) ||| ((v4 >>> 15) &&& 0xf))),
    u8 (((v4 >>> 7) &&& 0xff)),
    u8 (((((v4) &&& 0x7f) <<< 1) ||| ((v5 >>> 18) &&& 0x1))),
    u8 (((v5 >>> 10) &&& 0xff)),
    u8 (((v5 >>> 2) &&& 0xff)),
    u8 (((((v5) &&& 0x3) <<< 6) ||| ((v6 >>> 13) &&& 0x3f))),
    u8 (((v6 >>> 5) &&& 0xff)),
    u8 (((((v6) &&& 0x1f) <<< 3) ||| ((v7 >>> 16) &&& 0x7))),
    u8 (((v7 >>> 8) &&& 0xff)),
    u8 (((v7) &&& 0xff)) ]

def unpack_bits_19 (bs : List Nat) : List Nat :=
  [ ((((bs.getD 0 0))) <<< 11) ||| ((((bs.getD 1 0))) <<< 3) ||| ((((bs.getD 2 0) >>> 5) &&& 0x7)),
    (((((bs.getD 2 0)) &&& 0x1f)) <<< 14) ||| ((((bs.getD 3 0))) <<< 6) ||| ((((bs.getD 4 0) >>> 2) &&& 0x3f)),
    (((((bs.getD 4 0)) &&& 0x3)) <<< 17) ||| ((((bs.getD 5 0))) <<< 9) ||| ((((bs.getD 6 0))) <<< 1) ||| ((((bs.getD 7 0) >>> 7) &&& 0x1)),
    (((((bs.getD 7 0)) &&& 0x7f)) <<< 12) ||| ((((bs.getD 8 0))) <<< 4) ||| ((((bs.getD 9 0) >>> 4) &&& 0xf)),
    (((((bs.getD 9 0)) &&& 0xf)) <<< 15) ||| ((((bs.getD 10 0))) <<< 7) ||| ((((bs.getD 11 0) >>> 1) &&& 0x7f)),
    (((((bs.getD 11 0)) &&& 0x1)) <<< 18) ||| ((((bs.getD 12 0))) <<< 10) ||| ((((bs.getD 13 0))) <<< 2) ||| ((((bs.getD 14 0) >>> 6) &&& 0x3)),
    (((((bs.getD 14 0)) &&& 0x3f)) <<< 13) ||| ((((bs.getD 15 0))) <<< 5) ||| ((((bs.getD 16 0) >>> 3) &&& 0x1f)),
    (((((bs.getD 16 0)) &&& 0x7)) <<< 16) ||| ((((bs.getD 17 0))) <<< 8) ||| (((bs.getD 18 0))) ]

def pack_bits_20 (v0 v1 v2 v3 v4 v5 v6 v7 : Nat) : List Nat :=
  [ u8 (((v0 >>> 12) &&& 0xff)),
    u8 (((v0 >>> 4) &&& 0xff)),
    u8 (((((v0) &&& 0xf) <<< 4) ||| ((v1 >>> 16) &&& 0xf))),
    u8 (((v1 >>> 8) &&& 0xff)),
    u8 (((v1) &&& 0xff)),
    u8 (((v2 >>> 12) &&& 0xff)),
    u8 (((v2 >>> 4) &&& 0xff)),
    u8 (((((v2) &&& 0xf) <<< 4) ||| ((v3 >>> 16) &&& 0xf))),
    u8 (((v3 >>> 8) &&& 0xff)),
    u8 (((v3) &&& 0xff)),
    u8 (((v4 >>> 12) &&& 0xff)),
    u8 (((v4 >>> 4) &&& 0xff)),
    u8 (((((v4) &&& 0xf) <<< 4) ||| ((v5 >>> 16) &&& 0xf))),
    u8 (((v5 >>> 8) &&& 0xff)),
    u8 (((v5) &&& 0xff)),
    u8 (((v6 >>> 12) &&& 0xff)),
    u8 (((v6 >>> 4) &&& 0xff)),
    u8 (((((v6) &&& 0xf) <<< 4) ||| ((v7 >>> 16) &&& 0xf))),
    u8 (((v7 >>> 8) &&& 0xff)),
    u8 (((v7) &&& 0xff)) ]

def unpack_bits_20 (bs : List Nat) : List Nat :=
  [ ((((bs.getD 0 0))) <<< 12) ||| ((((bs.getD 1 0))) <<< 4) ||| ((((bs.getD 2 0) >>> 4) &&& 0xf)),
    (((((bs.getD 2 0)) &&& 0xf)) <<< 16) ||| ((((bs.getD 3 0))) <<< 8) ||| (((bs.getD 4 0))),
    ((((bs.getD 5 0))) <<< 12) ||| ((((bs.getD 6 0))) <<< 4) ||| ((((bs.getD 7 0) >>> 4) &&& 0xf)),
    (((((bs.getD 7 0)) &&& 0xf)) <<< 16) ||| ((((bs.getD 8 0))) <<< 8) ||| (((bs.getD 9 0))),
    ((((bs.getD 10 0))) <<< 12) ||| ((((bs.getD 11 0))) <<< 4) ||| ((((bs.getD 12 0) >>> 4) &&& 0xf)),
    (((((bs.getD 12 0)) &&& 0xf)) <<< 16) ||| ((((bs.getD 13 0))) <<< 8) ||| (((bs.getD 14 0))),
    ((((bs.getD 15 0))) <<< 12) ||| ((((bs.getD 16 0))) <<< 4) ||| ((((bs.getD 17 0) >>> 4) &&& 0xf)),
    (((((bs.getD 17 0)) &&& 0xf)) <<< 16) ||| ((((bs.getD 18 0))) <<< 8) ||| (((bs.getD 19 0))) ]

def pack_bits_21 (v0 v1 v2 v3 v4 v5 v6 v7 : Nat) : List Nat :=
  [ u8 (((v0 >>> 13) &&& 0xff)),
    u8 (((v0 >>> 5) &&& 0xff)),
    u8 (((((v0) &&& 0x1f) <<< 3) ||| ((v1 >>> 18) &&& 0x7))),
    u8 (((v1 >>> 10) &&& 0xff)),
    u8 (((v1 >>> 2) &&& 0xff)),
    u8 (((((v1) &&& 0x3) <<< 6) ||| ((v2 >>> 15) &&& 0x3f))),
    u8 (((v2 >>> 7) &&& 0xff)),
    u8 (((((v2) &&& 0x7f) <<< 1) ||| ((v3 >>> 20) &&& 0x1))),
    u8 (((v3 >>> 12) &&& 0xff)),
    u8 (((v3 >>> 4) &&& 0xff)),
    u8 (((((v3) &&& 0xf) <<< 4) ||| ((v4 >>> 17) &&& 0xf))),
    u8 (((v4 >>> 9) &&& 0xff)),
    u8 (((v4 >>> 1) &&& 0xff)),
    u8 (((((v4) &&& 0x1) <<< 7) ||| ((v5 >>> 14) &&& 0x7f))),
    u8 (((v5 >>> 6) &&& 0xff)),
    u8 (((((v5) &&& 0x3f) <<< 2) ||| ((v6 >>> 19) &&& 0x3))),
    u8 (((v6 >>> 11) &&& 0xff)),
    u8 (((v6 >>> 3) &&& 0xff)),
    u8 (((((v6) &&& 0x7) <<< 5) ||| ((v7 >>> 16) &&& 0x1f))),
    u8 (((v7 >>> 8) &&& 0xff)),
    u8 (((v7) &&& 0xff)) ]

def unpack_bits_21 (bs : List Nat) : List Nat :=
  [ ((((bs.getD 0 0))) <<< 13) ||| ((((bs.getD 1 0))) <<< 5) ||| ((((bs.getD 2 0) >>> 3) &&& 0x1f)),
    (((((bs.getD 2 0)) &&& 0x7)) <<< 18) ||| ((((bs.getD 3 0))) <<< 10) ||| ((((bs.getD 4 0))) <<< 2) ||| ((((bs.getD 5 0) >>> 6) &&& 0x3)),
    (((((bs.getD 5 0)) &&& 0x3f)) <<< 15) ||| ((((bs.getD 6 0))) <<< 7) ||| ((((bs.getD 7 0) >>> 1) &&& 0x7f)),
    (((((bs.getD 7 0)) &&& 0x1)) <<< 20) ||| ((((bs.getD 8 0))) <<< 12) ||| ((((bs.getD 9 0))) <<< 4) ||| ((((bs.getD 10 0) >>> 4) &&& 0xf)),
    (((((bs.getD 10 0)) &&& 0xf)) <<< 17) ||| ((((bs.getD 11 0))) <<< 9) ||| ((((bs.getD 12 0))) <<< 1) ||| ((((bs.getD 13 0) >>> 7) &&& 0x1)),
    (((((bs.getD 13 0)) &&& 0x7f)) <<< 14) ||| ((((bs.getD 14 0))) <<< 6) ||| ((((bs.getD 15 0) >>> 2) &&& 0x3f)),
    (((((bs.getD 15 0)) &&& 0x3)) <<< 19) ||| ((((bs.getD 16 0))) <<< 11) ||| ((((bs.getD 17 0))) <<< 3) ||| ((((bs.getD 18 0) >>> 5) &&& 0x7)),
    (((((bs.getD 18 0)) &&& 0x1f)) <<< 16) ||| ((((bs.getD 19 0))) <<< 8) ||| (((bs.getD 20 0))) ]

def pack_bits_22 (v0 v1 v2 v3 v4 v5 v6 v7 : Nat) : List Nat :=
  [ u8 (((v0 >>> 14) &&& 0xff)),
    u8 (((v0 >>> 6) &&& 0xff)),
    u8 (((((v0) &&& 0x3f) <<< 2) ||| ((v1 >>> 20) &&& 0x3))),
    u8 (((v1 >>> 12) &&& 0xff)),
    u8 (((v1 >>> 4) &&& 0xff)),
    u8 (((((v1) &&& 0xf) <<< 4) ||| ((v2 >>> 18) &&& 0xf))),
    u8 (((v2 >>> 10) &&& 0xff)),
    u8 (((v2 >>> 2) &&& 0xff)),
    u8 (((((v2) &&& 0x3) <<< 6) ||| ((v3 >>> 16) &&& 0x3f))),
    u8 (((v3 >>> 8) &&& 0xff)),
    u8 (((v3) &&& 0xff)),
    u8 (((v4 >>> 14) &&& 0xff)),
    u8 (((v4 >>> 6) &&& 0xff)),
    u8 (((((v4) &&& 0x3f) <<< 2) ||| ((v5 >>> 20) &&& 0x3))),
    u8 (((v5 >>> 12) &&& 0xff)),
    u8 (((v5 >>> 4) &&& 0xff)),
    u8 (((((v5) &&& 0xf) <<< 4) ||| ((v6 >>> 18) &&& 0xf))),
    u8 (((v6 >>> 10) &&& 0xff)),
    u8 (((v6 >>> 2) &&& 0xff)),
    u8 (((((v6) &&& 0x3) <<< 6) ||| ((v7 >>> 16) &&& 0x3f))),
    u8 (((v7 >>> 8) &&& 0xff)),
    u8 (((v7) &&& 0xff)) ]

def unpack_bits_22 (bs : List Nat) : List Nat :=
  [ ((((bs.getD 0 0))) <<< 14) ||| ((((bs.getD 1 0))) <<< 6) ||| ((((bs.getD 2 0) >>> 2) &&& 0x3f)),
    (((((bs.getD 2 0)) &&& 0x3)) <<< 20) ||| ((((bs.getD 3 0))) <<< 12) ||| ((((bs.getD 4 0))) <<< 4) ||| ((((bs.getD 5 0) >>> 4) &&& 0xf)),
    (((((bs.getD 5 0)) &&& 0xf)) <<< 18) ||| ((((bs.getD 6 0))) <<< 10) ||| ((((bs.getD 7 0))) <<< 2) ||| ((((bs.getD 8 0) >>> 6) &&& 0x3)),
    (((((bs.getD 8 0)) &&& 0x3f)) <<< 16) ||| ((((bs.getD 9 0))) <<< 8) ||| (((bs.getD 10 0))),
    ((((bs.getD 11 0))) <<< 14) ||| ((((bs.getD 12 0))) <<< 6) ||| ((((bs.getD 13 0) >>> 2) &&& 0x3f)),
    (((((bs.getD 13 0)) &&& 0x3)) <<< 20) ||| ((((bs.getD 14 0))) <<< 12) ||| ((((bs.getD 15 0))) <<< 4) ||| ((((bs.getD 16 0) >>> 4) &&& 0xf)),
    (((((bs.getD 16 0)) &&& 0xf)) <<< 18) ||| ((((bs.getD 17 0))) <<< 10) ||| ((((bs.getD 18 0))) <<< 2) ||| ((((bs.getD 19 0) >>> 6) &&& 0x3)),
    (((((bs.getD 19 0)) &&& 0x3f)) <<< 16) ||| ((((bs.getD 20 0))) <<< 8) ||| (((bs.getD 21 0))) ]

def pack_bits_23 (v0 v1 v2 v3 v4 v5 v6 v7 : Nat) : List Nat :=
  [ u8 (((v0 >>> 15) &&& 0xff)),
    u8 (((v0 >>> 7) &&& 0xff)),
    u8 (((((v0) &&& 0x7f) <<< 1) ||| ((v1 >>> 22) &&& 0x1))),
    u8 (((v1 >>> 14) &&& 0xff)),
    u8 (((v1 >>> 6) &&& 0xff)),
    u8 (((((v1) &&& 0x3f) <<< 2) ||| ((v2 >>> 21) &&& 0x3))),
    u8 (((v2 >>> 13) &&& 0xff)),
    u8 (((v2 >>> 5) &&& 0xff)),
    u8 (((((v2) &&& 0x1f) <<< 3) ||| ((v3 >>> 20) &&& 0x7))),
    u8 (((v3 >>> 12) &&& 0xff)),
    u8 (((v3 >>> 4) &&& 0xff)),
    u8 (((((v3) &&& 0xf) <<< 4) ||| ((v4 >>> 19) &&& 0xf))),
    u8 (((v4 >>> 11) &&& 0xff)),
    u8 (((v4 >>> 3) &&& 0xff)),
    u8 (((((v4) &&& 0x7) <<< 5) ||| ((v5 >>> 18) &&& 0x1f))),
    u8 (((v5 >>> 10) &&& 0xff)),
    u8 (((v5 >>> 2) &&& 0xff)),
    u8 (((((v5) &&& 0x3) <<< 6) ||| ((v6 >>> 17) &&& 0x3f))),
    u8 (((v6 >>> 9) &&& 0xff)),
    u8 (((v6 >>> 1) &&& 0xff)),
    u8 (((((v6) &&& 0x1) <<< 7) ||| ((v7 >>> 16) &&& 0x7f))),
    u8 (((v7 >>> 8) &&& 0xff)),
    u8 (((v7) &&& 0xff)) ]

def unpack_bits_23 (bs : List Nat) : List Nat :=
  [ ((((bs.getD 0 0))) <<< 15) ||| ((((bs.getD 1 0))) <<< 7) ||| ((((bs.getD 2 0) >>> 1) &&& 0x7f)),
    (((((bs.getD 2 0)) &&& 0x1)) <<< 22) ||| ((((bs.getD 3 0))) <<< 14) ||| ((((bs.getD 4 0))) <<< 6) ||| ((((bs.getD 5 0) >>> 2) &&& 0x3f)),
    (((((bs.getD 5 0)) &&& 0x3)) <<< 21) ||| ((((bs.getD 6 0))) <<< 13) ||| ((((bs.getD 7 0))) <<< 5) ||| ((((bs.getD 8 0) >>> 3) &&& 0x1f)),
    (((((bs.getD 8 0)) &&& 0x7)) <<< 20) ||| ((((bs.getD 9 0))) <<< 12) ||| ((((bs.getD 10 0))) <<< 4) ||| ((((bs.getD 11 0) >>> 4) &&& 0xf)),
    (((((bs.getD 11 0)) &&& 0xf)) <<< 19) ||| ((((bs.getD 12 0))) <<< 11) ||| ((((bs.getD 13 0))) <<< 3) ||| ((((bs.getD 14 0) >>> 5) &&& 0x7)),
    (((((bs.getD 14 0)) &&& 0x1f)) <<< 18) ||| ((((bs.getD 15 0))) <<< 10) ||| ((((bs.getD 16 0))) <<< 2) ||| ((((bs.getD 17 0) >>> 6) &&& 0x3)),
    (((((bs.getD 17 0)) &&& 0x3f)) <<< 17) ||| ((((bs.getD 18 0))) <<< 9) ||| ((((bs.getD 19 0))) <<< 1) ||| ((((bs.getD 20 0) >>> 7) &&& 0x1)),
    (((((bs.getD 20 0)) &&& 0x7f)) <<< 16) ||| ((((bs.getD 21 0))) <<< 8) ||| (((bs.getD 22 0))) ]

def pack_bits_24 (v0 v1 v2 v3 v4 v5 v6 v7 : Nat) : List Nat :=
  [ u8 (((v0 >>> 16) &&& 0xff)),
    u8 (((v0 >>> 8) &&& 0xff)),
    u8 (((v0) &&& 0xff)),
    u8 (((v1 >>> 16) &&& 0xff)),
    u8 (((v1 >>> 8) &&& 0xff)),
    u8 (((v1) &&& 0xff)),
    u8 (((v2 >>> 16) &&& 0xff)),
    u8 (((v2 >>> 8) &&& 0xff)),
    u8 (((v2) &&& 0xff)),
    u8 (((v3 >>> 16) &&& 0xff)),
    u8 (((v3 >>> 8) &&& 0xff)),
    u8 (((v3) &&& 0xff)),
    u8 (((v4 >>> 16) &&& 0xff)),
    u8 (((v4 >>> 8) &&& 0xff)),
    u8 (((v4) &&& 0xff)),
    u8 (((v5 >>> 16) &&& 0xff)),
    u8 (((v5 >>> 8) &&& 0xff)),
    u8 (((v5) &&& 0xff)),
    u8 (((v6 >>> 16) &&& 0xff)),
    u8 (((v6 >>> 8) &&& 0xff)),
    u8 (((v6) &&& 0xff)),
    u8 (((v7 >>> 16) &&& 0xff)),
    u8 (((v7 >>> 8) &&& 0xff)),
    u8 (((v7) &&& 0xff)) ]

def unpack_bits_24 (bs : List Nat) : List Nat :=
  [ ((((bs.getD 0 0))) <<< 16) ||| ((((bs.getD 1 0))) <<< 8) ||| (((bs.getD 2 0))),
    ((((bs.getD 3 0))) <<< 16) ||| ((((bs.getD 4 0))) <<< 8) ||| (((bs.getD 5 0))),
    ((((bs.getD 6 0))) <<< 16) ||| ((((bs.getD 7 0))) <<< 8) ||| (((bs.getD 8 0))),
    ((((bs.getD 9 0))) <<< 16) ||| ((((bs.getD 10 0))) <<< 8) ||| (((bs.getD 11 0))),
    ((((bs.getD 12 0))) <<< 16) ||| ((((bs.getD 13 0))) <<< 8) ||| (((bs.getD 14 0))),
    ((((bs.getD 15 0))) <<< 16) ||| ((((bs.getD 16 0))) <<< 8) ||| (((bs.getD 17 0))),
    ((((bs.getD 18 0))) <<< 16) ||| ((((bs.getD 19 0))) <<< 8) ||| (((bs.getD 20 0))),
    ((((bs.getD 21 0))) <<< 16) ||| ((((bs.getD 22 0))) <<< 8) ||| (((bs.getD 23 0))) ]

def pack_bits_25 (v0 v1 v2 v3 v4 v5 v6 v7 : Nat) : List Nat :=
  [ u8 (((v0 >>> 17) &&& 0xff)),
    u8 (((v0 >>> 9) &&& 0xff)),
    u8 (((v0 >>> 1) &&& 0xff)),
    u8 (((((v0) &&& 0x1) <<< 7) ||| ((v1 >>> 18) &&& 0x7f))),
    u8 (((v1 >>> 10) &&& 0xff)),
    u8 (((v1 >>> 2) &&& 0xff)),
    u8 (((((v1) &&& 0x3) <<< 6) ||| ((v2 >>> 19) &&& 0x3f))),
    u8 (((v2 >>> 11) &&& 0xff)),
    u8 (((v2 >>> 3) &&& 0xff)),
    u8 (((((v2) &&& 0x7) <<< 5) ||| ((v3 >>> 20) &&& 0x1f))),
    u8 (((v3 >>> 12) &&& 0xff)),
    u8 (((v3 >>> 4) &&& 0xff)),
    u8 (((((v3) &&& 0xf) <<< 4) ||| ((v4 >>> 21) &&& 0xf))),
    u8 (((v4 >>> 13) &&& 0xff)),
    u8 (((v4 >>> 5) &&& 0xff)),
    u8 (((((v4) &&& 0x1f) <<< 3) ||| ((v5 >>> 22) &&& 0x7))),
    u8 (((v5 >>> 14) &&& 0xff)),
    u8 (((v5 >>> 6) &&& 0xff)),
    u8 (((((v5) &&& 0x3f) <<< 2) ||| ((v6 >>> 23) &&& 0x3))),
    u8 (((v6 >>> 15) &&& 0xff)),
    u8 (((v6 >>> 7) &&& 0xff)),
    u8 (((((v6) &&& 0x7f) <<< 1) ||| ((v7 >>> 24) &&& 0x1))),
    u8 (((v7 >>> 16) &&& 0xff)),
    u8 (((v7 >>> 8) &&& 0xff)),
    u8 (((v7) &&& 0xff)) ]

def unpack_bits_25 (bs : List Nat) : List Nat :=
  [ ((((bs.getD 0 0))) <<< 17) ||| ((((bs.getD 1 0))) <<< 9) ||| ((((bs.getD 2 0))) <<< 1) ||| ((((bs.getD 3 0) >>> 7) &&& 0x1)),
    (((((bs.getD 3 0)) &&& 0x7f)) <<< 18) ||| ((((bs.getD 4 0))) <<< 10) ||| ((((bs.getD 5 0))) <<< 2) ||| ((((bs.getD 6 0) >>> 6) &&& 0x3)),
    (((((bs.getD 6 0)) &&& 0x3f)) <<< 19) ||| ((((bs.getD 7 0))) <<< 11) ||| ((((bs.getD 8 0))) <<< 3) ||| ((((bs.getD 9 0) >>> 5) &&& 0x7)),
    (((((bs.getD 9 0)) &&& 0x1f)) <<< 20) ||| ((((bs.getD 10 0))) <<< 12) ||| ((((bs.getD 11 0))) <<< 4) ||| ((((bs.getD 12 0) >>> 4) &&& 0xf)),
    (((((bs.getD 12 0)) &&& 0xf)) <<< 21) ||| ((((bs.getD 13 0))) <<< 13) ||| ((((bs.getD 14 0))) <<< 5) ||| ((((bs.getD 15 0) >>> 3) &&& 0x1f)),
    (((((bs.getD 15 0)) &&& 0x7)) <<< 22) ||| ((((bs.getD 16 0))) <<< 14) ||| ((((bs.getD 17 0))) <<< 6) ||| ((((bs.getD 18 0) >>> 2) &&& 0x3f)),
    (((((bs.getD 18 0)) &&& 0x3)) <<< 23) ||| ((((bs.getD 19 0))) <<< 15) ||| ((((bs.getD 20 0))) <<< 7) ||| ((((bs.getD 21 0) >>> 1) &&& 0x7f)),
    (((((bs.getD 21 0)) &&& 0x1)) <<< 24) ||| ((((bs.getD 22 0))) <<< 16) ||| ((((bs.getD 23 0))) <<< 8) ||| (((bs.getD 24 0))) ]

def pack_bits_26 (v0 v1 v2 v3 v4 v5 v6 v7 : Nat) : List Nat :=
  [ u8 (((v0 >>> 18) &&& 0xff)),
    u8 (((v0 >>> 10) &&& 0xff)),
    u8 (((v0 >>> 2) &&& 0xff)),
    u8 (((((v0) &&& 0x3) <<< 6) ||| ((v1 >>> 20) &&& 0x3f))),
    u8 (((v1 >>> 12) &&& 0xff)),
    u8 (((v1 >>> 4) &&& 0xff)),
    u8 (((((v1) &&& 0xf) <<< 4) ||| ((v2 >>> 22) &&& 0xf))),
    u8 (((v2 >>> 14) &&& 0xff)),
    u8 (((v2 >>> 6) &&& 0xff)),
    u8 (((((v2) &&& 0x3f) <<< 2) ||| ((v3 >>> 24) &&& 0x3))),
    u8 (((v3 >>> 16) &&& 0xff)),
    u8 (((v3 >>> 8) &&& 0xff)),
    u8 (((v3) &&& 0xff)),
    u8 (((v4 >>> 18) &&& 0xff)),
    u8 (((v4 >>> 10) &&& 0xff)),
    u8 (((v4 >>> 2) &&& 0xff)),
    u8 (((((v4) &&& 0x3) <<< 6) ||| ((v5 >>> 20) &&& 0x3f))),
    u8 (((v5 >>> 12) &&& 0xff)),
    u8 (((v5 >>> 4) &&& 0xff)),
    u8 (((((v5) &&& 0xf) <<< 4) ||| ((v6 >>> 22) &&& 0xf))),
    u8 (((v6 >>> 14) &&& 0xff)),
    u8 (((v6 >>> 6) &&& 0xff)),
    u8 (((((v6) &&& 0x3f) <<< 2) ||| ((v7 >>> 24) &&& 0x3))),
    u8 (((v7 >>> 16) &&& 0xff)),
    u8 (((v7 >>> 8) &&& 0xff)),
    u8 (((v7) &&& 0xff)) ]

def unpack_bits_26 (bs : List Nat) : List Nat :=
  [ ((((bs.getD 0 0))) <<< 18) ||| ((((bs.getD 1 0))) <<< 10) ||| ((((bs.getD 2 0))) <<< 2) ||| ((((bs.getD 3 0) >>> 6) &&& 0x3)),
    (((((bs.getD 3 0)) &&& 0x3f)) <<< 20) ||| ((((bs.getD 4 0))) <<< 12) ||| ((((bs.getD 5 0))) <<< 4) ||| ((((bs.getD 6 0) >>> 4) &&& 0xf)),
    (((((bs.getD 6 0)) &&& 0xf)) <<< 22) ||| ((((bs.getD 7 0))) <<< 14) ||| ((((bs.getD 8 0))) <<< 6) ||| ((((bs.getD 9 0) >>> 2) &&& 0x3f)),
    (((((bs.getD 9 0)) &&& 0x3)) <<< 24) ||| ((((bs.getD 10 0))) <<< 16) ||| ((((bs.getD 11 0))) <<< 8) ||| (((bs.getD 12 0))),
    ((((bs.getD 13 0))) <<< 18) ||| ((((bs.getD 14 0))) <<< 10) ||| ((((bs.getD 15 0))) <<< 2) ||| ((((bs.getD 16 0) >>> 6) &&& 0x3)),
    (((((bs.getD 16 0)) &&& 0x3f)) <<< 20) ||| ((((bs.getD 17 0))) <<< 12) ||| ((((bs.getD 18 0))) <<< 4) ||| ((((bs.getD 19 0) >>> 4) &&& 0xf)),
    (((((bs.getD 19 0)) &&& 0xf)) <<< 22) ||| ((((bs.getD 20 0))) <<< 14) ||| ((((bs.getD 21 0))) <<< 6) ||| ((((bs.getD 22 0) >>> 2) &&& 0x3f)),
    (((((bs.getD 22 0)) &&& 0x3)) <<< 24) ||| ((((bs.getD 23 0))) <<< 16) ||| ((((bs.getD 24 0))) <<< 8) ||| (((bs.getD 25 0))) ]

def pack_bits_27 (v0 v1 v2 v3 v4 v5 v6 v7 : Nat) : List Nat :=
  [ u8 (((v0 >>> 19) &&& 0xff)),
    u8 (((v0 >>> 11) &&& 0xff)),
    u8 (((v0 >>> 3) &&& 0xff)),
    u8 (((((v0) &&& 0x7) <<< 5) ||| ((v1 >>> 22) &&& 0x1f))),
    u8 (((v1 >>> 14) &&& 0xff)),
    u8 (((v1 >>> 6) &&& 0xff)),
    u8 (((((v1) &&& 0x3f) <<< 2) ||| ((v2 >>> 25) &&& 0x3))),
    u8 (((v2 >>> 17) &&& 0xff)),
    u8 (((v2 >>> 9) &&& 0xff)),
    u8 (((v2 >>> 1) &&& 0xff)),
    u8 (((((v2) &&& 0x1) <<< 7) ||| ((v3 >>> 20) &&& 0x7f))),
    u8 (((v3 >>> 12) &&& 0xff)),
    u8 (((v3 >>> 4) &&& 0xff)),
    u8 (((((v3) &&& 0xf) <<< 4) ||| ((v4 >>> 23) &&& 0xf))),
    u8 (((v4 >>> 15) &&& 0xff)),
    u8 (((v4 >>> 7) &&& 0xff)),
    u8 (((((v4) &&& 0x7f) <<< 1) ||| ((v5 >>> 26) &&& 0x1))),
    u8 (((v5 >>> 18) &&& 0xff)),
    u8 (((v5 >>> 10) &&& 0xff)),
    u8 (((v5 >>> 2) &&& 0xff)),
    u8 (((((v5) &&& 0x3) <<< 6) ||| ((v6 >>> 21) &&& 0x3f))),
    u8 (((v6 >>> 13) &&& 0xff)),
    u8 (((v6 >>> 5) &&& 0xff)),
    u8 (((((v6) &&& 0x1f) <<< 3) ||| ((v7 >>> 24) &&& 0x7))),
    u8 (((v7 >>> 16) &&& 0xff)),
    u8 (((v7 >>> 8) &&& 0xff)),
    u8 (((v7) &&& 0xff)) ]

def unpack_bits_27 (bs : List Nat) : List Nat :=
  [ ((((bs.getD 0 0))) <<< 19) ||| ((((bs.getD 1 0))) <<< 11) ||| ((((bs.getD 2 0))) <<< 3) ||| ((((bs.getD 3 0) >>> 5) &&& 0x7)),
    (((((bs.getD 3 0)) &&& 0x1f)) <<< 22) ||| ((((bs.getD 4 0))) <<< 14) ||| ((((bs.getD 5 0))) <<< 6) ||| ((((bs.getD 6 0) >>> 2) &&& 0x3f)),
    (((((bs.getD 6 0)) &&& 0x3)) <<< 25) ||| ((((bs.getD 7 0))) <<< 17) ||| ((((bs.getD 8 0))) <<< 9) ||| ((((bs.getD 9 0))) <<< 1) ||| ((((bs.getD 10 0) >>> 7) &&& 0x1)),
    (((((bs.getD 10 0)) &&& 0x7f)) <<< 20) ||| ((((bs.getD 11 0))) <<< 12) ||| ((((bs.getD 12 0))) <<< 4) ||| ((((bs.getD 13 0) >>> 4) &&& 0xf)),
    (((((bs.getD 13 0)) &&& 0xf)) <<< 23) ||| ((((bs.getD 14 0))) <<< 15) ||| ((((bs.getD 15 0))) <<< 7) ||| ((((bs.getD 16 0) >>> 1) &&& 0x7f)),
    (((((bs.getD 16 0)) &&& 0x1)) <<< 26) ||| ((((bs.getD 17 0))) <<< 18) ||| ((((bs.getD 18 0))) <<< 10) ||| ((((bs.getD 19 0))) <<< 2) ||| ((((bs.getD 20 0) >>> 6) &&& 0x3)),
    (((((bs.getD 20 0)) &&& 0x3f)) <<< 21) ||| ((((bs.getD 21 0))) <<< 13) ||| ((((bs.getD 22 0))) <<< 5) ||| ((((bs.getD 23 0) >>> 3) &&& 0x1f)),
    (((((bs.getD 23 0)) &&& 0x7)) <<< 24) ||| ((((bs.getD 24 0))) <<< 16) ||| ((((bs.getD 25 0))) <<< 8) ||| (((bs.getD 26 0))) ]

def pack_bits_28 (v0 v1 v2 v3 v4 v5 v6 v7 : Nat) : List Nat :=
  [ u8 (((v0 >>> 20) &&& 0xff)),
    u8 (((v0 >>> 12) &&& 0xff)),
    u8 (((v0 >>> 4) &&& 0xff)),
    u8 (((((v0) &&& 0xf) <<< 4) ||| ((v1 >>> 24) &&& 0xf))),
    u8 (((v1 >>> 16) &&& 0xff)),
    u8 (((v1 >>> 8) &&& 0xff)),
    u8 (((v1) &&& 0xff)),
    u8 (((v2 >>> 20) &&& 0xff)),
    u8 (((v2 >>> 12) &&& 0xff)),
    u8 (((v2 >>> 4) &&& 0xff)),
    u8 (((((v2) &&& 0xf) <<< 4) ||| ((v3 >>> 24) &&& 0xf))),
    u8 (((v3 >>> 16) &&& 0xff)),
    u8 (((v3 >>> 8) &&& 0xff)),
    u8 (((v3) &&& 0xff)),
    u8 (((v4 >>> 20) &&& 0xff)),
    u8 (((v4 >>> 12) &&& 0xff)),
    u8 (((v4 >>> 4) &&& 0xff)),
    u8 (((((v4) &&& 0xf) <<< 4) ||| ((v5 >>> 24) &&& 0xf))),
    u8 (((v5 >>> 16) &&& 0xff)),
    u8 (((v5 >>> 8) &&& 0xff)),
    u8 (((v5) &&& 0xff)),
    u8 (((v6 >>> 20) &&& 0xff)),
    u8 (((v6 >>> 12) &&& 0xff)),
    u8 (((v6 >>> 4) &&& 0xff)),
    u8 (((((v6) &&& 0xf) <<< 4) ||| ((v7 >>> 24) &&& 0xf))),
    u8 (((v7 >>> 16) &&& 0xff)),
    u8 (((v7 >>> 8) &&& 0xff)),
    u8 (((v7) &&& 0xff)) ]

def unpack_bits_28 (bs : List Nat) : List Nat :=
  [ ((((bs.getD 0 0))) <<< 20) ||| ((((bs.getD 1 0))) <<< 12) ||| ((((bs.getD 2 0))) <<< 4) ||| ((((bs.getD 3 0) >>> 4) &&& 0xf)),
    (((((bs.getD 3 0)) &&& 0xf)) <<< 24) ||| ((((bs.getD 4 0))) <<< 16) ||| ((((bs.getD 5 0))) <<< 8) ||| (((bs.getD 6 0))),
    ((((bs.getD 7 0))) <<< 20) ||| ((((bs.getD 8 0))) <<< 12) ||| ((((bs.getD 9 0))) <<< 4) ||| ((((bs.getD 10 0) >>> 4) &&& 0xf)),
    (((((bs.getD 10 0)) &&& 0xf)) <<< 24) ||| ((((bs.getD 11 0))) <<< 16) ||| ((((bs.getD 12 0))) <<< 8) ||| (((bs.getD 13 0))),
    ((((bs.getD 14 0))) <<< 20) ||| ((((bs.getD 15 0))) <<< 12) ||| ((((bs.getD 16 0))) <<< 4) ||| ((((bs.getD 17 0) >>> 4) &&& 0xf)),
    (((((bs.getD 17 0)) &&& 0xf)) <<< 24) ||| ((((bs.getD 18 0))) <<< 16) ||| ((((bs.getD 19 0))) <<< 8) ||| (((bs.getD 20 0))),
    ((((bs.getD 21 0))) <<< 20) ||| ((((bs.getD 22 0))) <<< 12) ||| ((((bs.getD 23 0))) <<< 4) ||| ((((bs.getD 24 0) >>> 4) &&& 0xf)),
    (((((bs.getD 24 0)) &&& 0xf)) <<< 24) ||| ((((bs.getD 25 0))) <<< 16) ||| ((((bs.getD 26 0))) <<< 8) ||| (((bs.getD 27 0))) ]

def pack_bits_29 (v0 v1 v2 v3 v4 v5 v6 v7 : Nat) : List Nat :=
  [ u8 (((v0 >>> 21) &&& 0xff)),
    u8 (((v0 >>> 13) &&& 0xff)),
    u8 (((v0 >>> 5) &&& 0xff)),
    u8 (((((v0) &&& 0x1f) <<< 3) ||| ((v1 >>> 26) &&& 0x7))),
    u8 (((v1 >>> 18) &&& 0xff)),
    u8 (((v1 >>> 10) &&& 0xff)),
    u8 (((v1 >>> 2) &&& 0xff)),
    u8 (((((v1) &&& 0x3) <<< 6) ||| ((v2 >>> 23) &&& 0x3f))),
    u8 (((v2 >>> 15) &&& 0xff)),
    u8 (((v2 >>> 7) &&& 0xff)),
    u8 (((((v2) &&& 0x7f) <<< 1) ||| ((v3 >>> 28) &&& 0x1))),
    u8 (((v3 >>> 20) &&& 0xff)),
    u8 (((v3 >>> 12) &&& 0xff)),
    u8 (((v3 >>> 4) &&& 0xff)),
    u8 (((((v3) &&& 0xf) <<< 4) ||| ((v4 >>> 25) &&& 0xf))),
    u8 (((v4 >>> 17) &&& 0xff)),
    u8 (((v4 >>> 9) &&& 0xff)),
    u8 (((v4 >>> 1) &&& 0xff)),
    u8 (((((v4) &&& 0x1) <<< 7) ||| ((v5 >>> 22) &&& 0x7f))),
    u8 (((v5 >>> 14) &&& 0xff)),
    u8 (((v5 >>> 6) &&& 0xff)),
    u8 (((((v5) &&& 0x3f) <<< 2) ||| ((v6 >>> 27) &&& 0x3))),
    u8 (((v6 >>> 19) &&& 0xff)),
    u8 (((v6 >>> 11) &&& 0xff)),
    u8 (((v6 >>> 3) &&& 0xff)),
    u8 (((((v6) &&& 0x7) <<< 5) ||| ((v7 >>> 24) &&& 0x1f))),
    u8 (((v7 >>> 16) &&& 0xff)),
    u8 (((v7 >>> 8) &&& 0xff)),
    u8 (((v7) &&& 0xff)) ]

def unpack_bits_29 (bs : List Nat) : List Nat :=
  [ ((((bs.getD 0 0))) <<< 21) ||| ((((bs.getD 1 0))) <<< 13) ||| ((((bs.getD 2 0))) <<< 5) ||| ((((bs.getD 3 0) >>> 3) &&& 0x1f)),
    (((((bs.getD 3 0)) &&& 0x7)) <<< 26) ||| ((((bs.getD 4 0))) <<< 18) ||| ((((bs.getD 5 0))) <<< 10) ||| ((((bs.getD 6 0))) <<< 2) ||| ((((bs.getD 7 0) >>> 6) &&& 0x3)),
    (((((bs.getD 7 0)) &&& 0x3f)) <<< 23) ||| ((((bs.getD 8 0))) <<< 15) ||| ((((bs.getD 9 0))) <<< 7) ||| ((((bs.getD 10 0) >>> 1) &&& 0x7f)),
    (((((bs.getD 10 0)) &&& 0x1)) <<< 28) ||| ((((bs.getD 11 0))) <<< 20) ||| ((((bs.getD 12 0))) <<< 12) ||| ((((bs.getD 13 0))) <<< 4) ||| ((((bs.getD 14 0) >>> 4) &&& 0xf)),
    (((((bs.getD 14 0)) &&& 0xf)) <<< 25) ||| ((((bs.getD 15 0))) <<< 17) ||| ((((bs.getD 16 0))) <<< 9) ||| ((((bs.getD 17 0))) <<< 1) ||| ((((bs.getD 18 0) >>> 7) &&& 0x1)),
    (((((bs.getD 18 0)) &&& 0x7f)) <<< 22) ||| ((((bs.getD 19 0))) <<< 14) ||| ((((bs.getD 20 0))) <<< 6) ||| ((((bs.getD 21 0) >>> 2) &&& 0x3f)),
    (((((bs.getD 21 0)) &&& 0x3)) <<< 27) ||| ((((bs.getD 22 0))) <<< 19) ||| ((((bs.getD 23 0))) <<< 11) ||| ((((bs.getD 24 0))) <<< 3) ||| ((((bs.getD 25 0) >>> 5) &&& 0x7)),
    (((((bs.getD 25 0)) &&& 0x1f)) <<< 24) ||| ((((bs.getD 26 0))) <<< 16) ||| ((((bs.getD 27 0))) <<< 8) ||| (((bs.getD 28 0))) ]

def pack_bits_30 (v0 v1 v2 v3 v4 v5 v6 v7 : Nat) : List Nat :=
  [ u8 (((v0 >>> 22) &&& 0xff)),
    u8 (((v0 >>> 14) &&& 0xff)),
    u8 (((v0 >>> 6) &&& 0xff)),
    u8 (((((v0) &&& 0x3f) <<< 2) ||| ((v1 >>> 28) &&& 0x3))),
    u8 (((v1 >>> 20) &&& 0xff)),
    u8 (((v1 >>> 12) &&& 0xff)),
    u8 (((v1 >>> 4) &&& 0xff)),
    u8 (((((v1) &&& 0xf) <<< 4) ||| ((v2 >>> 26) &&& 0xf))),
    u8 (((v2 >>> 18) &&& 0xff)),
    u8 (((v2 >>> 10) &&& 0xff)),
    u8 (((v2 >>> 2) &&& 0xff)),
    u8 (((((v2) &&& 0x3) <<< 6) ||| ((v3 >>> 24) &&& 0x3f))),
    u8 (((v3 >>> 16) &&& 0xff)),
    u8 (((v3 >>> 8) &&& 0xff)),
    u8 (((v3) &&& 0xff)),
    u8 (((v4 >>> 22) &&& 0xff)),
    u8 (((v4 >>> 14) &&& 0xff)),
    u8 (((v4 >>> 6) &&& 0xff)),
    u8 (((((v4) &&& 0x3f) <<< 2) ||| ((v5 >>> 28) &&& 0x3))),
    u8 (((v5 >>> 20) &&& 0xff)),
    u8 (((v5 >>> 12) &&& 0xff)),
    u8 (((v5 >>> 4) &&& 0xff)),
    u8 (((((v5) &&& 0xf) <<< 4) ||| ((v6 >>> 26) &&& 0xf))),
    u8 (((v6 >>> 18) &&& 0xff)),
    u8 (((v6 >>> 10) &&& 0xff)),
    u8 (((v6 >>> 2) &&& 0xff)),
    u8 (((((v6) &&& 0x3) <<< 6) ||| ((v7 >>> 24) &&& 0x3f))),
    u8 (((v7 >>> 16) &&& 0xff)),
    u8 (((v7 >>> 8) &&& 0xff)),
    u8 (((v7) &&& 0xff)) ]

def unpack_bits_30 (bs : List Nat) : List Nat :=
  [ ((((bs.getD 0 0))) <<< 22) ||| ((((bs.getD 1 0))) <<< 14) ||| ((((bs.getD 2 0))) <<< 6) ||| ((((bs.getD 3 0) >>> 2) &&& 0x3f)),
    (((((bs.getD 3 0)) &&& 0x3)) <<< 28) ||| ((((bs.getD 4 0))) <<< 20) ||| ((((bs.getD 5 0))) <<< 12) ||| ((((bs.getD 6 0))) <<< 4) ||| ((((bs.getD 7 0) >>> 4) &&& 0xf)),
    (((((bs.getD 7 0)) &&& 0xf)) <<< 26) ||| ((((bs.getD 8 0))) <<< 18) ||| ((((bs.getD 9 0))) <<< 10) ||| ((((bs.getD 10 0))) <<< 2) ||| ((((bs.getD 11 0) >>> 6) &&& 0x3)),
    (((((bs.getD 11 0)) &&& 0x3f)) <<< 24) ||| ((((bs.getD 12 0))) <<< 16) ||| ((((bs.getD 13 0))) <<< 8) ||| (((bs.getD 14 0))),
    ((((bs.getD 15 0))) <<< 22) ||| ((((bs.getD 16 0))) <<< 14) ||| ((((bs.getD 17 0))) <<< 6) ||| ((((bs.getD 18 0) >>> 2) &&& 0x3f)),
    (((((bs.getD 18 0)) &&& 0x3)) <<< 28) ||| ((((bs.getD 19 0))) <<< 20) ||| ((((bs.getD 20 0))) <<< 12) ||| ((((bs.getD 21 0))) <<< 4) ||| ((((bs.getD 22 0) >>> 4) &&& 0xf)),
    (((((bs.getD 22 0)) &&& 0xf)) <<< 26) ||| ((((bs.getD 23 0))) <<< 18) ||| ((((bs.getD 24 0))) <<< 10) ||| ((((bs.getD 25 0))) <<< 2) ||| ((((bs.getD 26 0) >>> 6) &&& 0x3)),
    (((((bs.getD 26 0)) &&& 0x3f)) <<< 24) ||| ((((bs.getD 27 0))) <<< 16) ||| ((((bs.getD 28 0))) <<< 8) ||| (((bs.getD 29 0))) ]

def pack_bits_31 (v0 v1 v2 v3 v4 v5 v6 v7 : Nat) : List Nat :=
  [ u8 (((v0 >>> 23) &&& 0xff)),
    u8 (((v0 >>> 15) &&& 0xff)),
    u8 (((v0 >>> 7) &&& 0xff)),
    u8 (((((v0) &&& 0x7f) <<< 1) ||| ((v1 >>> 30) &&& 0x1))),
    u8 (((v1 >>> 22) &&& 0xff)),
    u8 (((v1 >>> 14) &&& 0xff)),
    u8 (((v1 >>> 6) &&& 0xff)),
    u8 (((((v1) &&& 0x3f) <<< 2) ||| ((v2 >>> 29) &&& 0x3))),
    u8 (((v2 >>> 21) &&& 0xff)),
    u8 (((v2 >>> 13) &&& 0xff)),
    u8 (((v2 >>> 5) &&& 0xff)),
    u8 (((((v2) &&& 0x1f) <<< 3) ||| ((v3 >>> 28) &&& 0x7))),
    u8 (((v3 >>> 20) &&& 0xff)),
    u8 (((v3 >>> 12) &&& 0xff)),
    u8 (((v3 >>> 4) &&& 0xff)),
    u8 (((((v3) &&& 0xf) <<< 4) ||| ((v4 >>> 27) &&& 0xf))),
    u8 (((v4 >>> 19) &&& 0xff)),
    u8 (((v4 >>> 11) &&& 0xff)),
    u8 (((v4 >>> 3) &&& 0xff)),
    u8 (((((v4) &&& 0x7) <<< 5) ||| ((v5 >>> 26) &&& 0x1f))),
    u8 (((v5 >>> 18) &&& 0xff)),
    u8 (((v5 >>> 10) &&& 0xff)),
    u8 (((v5 >>> 2) &&& 0xff)),
    u8 (((((v5) &&& 0x3) <<< 6) ||| ((v6 >>> 25) &&& 0x3f))),
    u8 (((v6 >>> 17) &&& 0xff)),
    u8 (((v6 >>> 9) &&& 0xff)),
    u8 (((v6 >>> 1) &&& 0xff)),
    u8 (((((v6) &&& 0x1) <<< 7) ||| ((v7 >>> 24) &&& 0x7f))),
    u8 (((v7 >>> 16) &&& 0xff)),
    u8 (((v7 >>> 8) &&& 0xff)),
    u8 (((v7) &&& 0xff)) ]

def unpack_bits_31 (bs : List Nat) : List Nat :=
  [ ((((bs.getD 0 0))) <<< 23) ||| ((((bs.getD 1 0))) <<< 15) ||| ((((bs.getD 2 0))) <<< 7) ||| ((((bs.getD 3 0) >>> 1) &&& 0x7f)),
    (((((bs.getD 3 0)) &&& 0x1)) <<< 30) ||| ((((bs.getD 4 0))) <<< 22) ||| ((((bs.getD 5 0))) <<< 14) ||| ((((bs.getD 6 0))) <<< 6) ||| ((((bs.getD 7 0) >>> 2) &&& 0x3f)),
    (((((bs.getD 7 0)) &&& 0x3)) <<< 29) ||| ((((bs.getD 8 0))) <<< 21) ||| ((((bs.getD 9 0))) <<< 13) ||| ((((bs.getD 10 0))) <<< 5) ||| ((((bs.getD 11 0) >>> 3) &&& 0x1f)),
    (((((bs.getD 11 0)) &&& 0x7)) <<< 28) ||| ((((bs.getD 12 0))) <<< 20) ||| ((((bs.getD 13 0))) <<< 12) ||| ((((bs.getD 14 0))) <<< 4) ||| ((((bs.getD 15 0) >>> 4) &&& 0xf)),
    (((((bs.getD 15 0)) &&& 0xf)) <<< 27) ||| ((((bs.getD 16 0))) <<< 19) ||| ((((bs.getD 17 0))) <<< 11) ||| ((((bs.getD 18 0))) <<< 3) ||| ((((bs.getD 19 0) >>> 5) &&& 0x7)),
    (((((bs.getD 19 0)) &&& 0x1f)) <<< 26) ||| ((((bs.getD 20 0))) <<< 18) ||| ((((bs.getD 21 0))) <<< 10) ||| ((((bs.getD 22 0))) <<< 2) ||| ((((bs.getD 23 0) >>> 6) &&& 0x3)),
    (((((bs.getD 23 0)) &&& 0x3f)) <<< 25) ||| ((((bs.getD 24 0))) <<< 17) ||| ((((bs.getD 25 0))) <<< 9) ||| ((((bs.getD 26 0))) <<< 1) ||| ((((bs.getD 27 0) >>> 7) &&& 0x1)),
    (((((bs.getD 27 0)) &&& 0x7f)) <<< 24) ||| ((((bs.getD 28 0))) <<< 16) ||| ((((bs.getD 29 0))) <<< 8) ||| (((bs.getD 30 0))) ]

def pack_bits_32 (v0 v1 v2 v3 v4 v5 v6 v7 : Nat) : List Nat :=
  [ u8 (((v0 >>> 24) &&& 0xff)),
    u8 (((v0 >>> 16) &&& 0xff)),
    u8 (((v0 >>> 8) &&& 0xff)),
    u8 (((v0) &&& 0xff)),
    u8 (((v1 >>> 24) &&& 0xff)),
    u8 (((v1 >>> 16) &&& 0xff)),
    u8 (((v1 >>> 8) &&& 0xff)),
    u8 (((v1) &&& 0xff)),
    u8 (((v2 >>> 24) &&& 0xff)),
    u8 (((v2 >>> 16) &&& 0xff)),
    u8 (((v2 >>> 8) &&& 0xff)),
    u8 (((v2) &&& 0xff)),
    u8 (((v3 >>> 24) &&& 0xff)),
    u8 (((v3 >>> 16) &&& 0xff)),
    u8 (((v3 >>> 8) &&& 0xff)),
    u8 (((v3) &&& 0xff)),
    u8 (((v4 >>> 24) &&& 0xff)),
    u8 (((v4 >>> 16) &&& 0xff)),
    u8 (((v4 >>> 8) &&& 0xff)),
    u8 (((v4) &&& 0xff)),
    u8 (((v5 >>> 24) &&& 0xff)),
    u8 (((v5 >>> 16) &&& 0xff)),
    u8 (((v5 >>> 8) &&& 0xff)),
    u8 (((v5) &&& 0xff)),
    u8 (((v6 >>> 24) &&& 0xff)),
    u8 (((v6 >>> 16) &&& 0xff)),
    u8 (((v6 >>> 8) &&& 0xff)),
    u8 (((v6) &&& 0xff)),
    u8 (((v7 >>> 24) &&& 0xff)),
    u8 (((v7 >>> 16) &&& 0xff)),
    u8 (((v7 >>> 8) &&& 0xff)),
    u8 (((v7) &&& 0xff)) ]

def unpack_bits_32 (bs : List Nat) : List Nat :=
  [ ((((bs.getD 0 0))) <<< 24) ||| ((((bs.getD 1 0))) <<< 16) ||| ((((bs.getD 2 0))) <<< 8) ||| (((bs.getD 3 0))),
    ((((bs.getD 4 0))) <<< 24) ||| ((((bs.getD 5 0))) <<< 16) ||| ((((bs.getD 6 0))) <<< 8) ||| (((bs.getD 7 0))),
    ((((bs.getD 8 0))) <<< 24) ||| ((((bs.getD 9 0))) <<< 16) ||| ((((bs.getD 10 0))) <<< 8) ||| (((bs.getD 11 0))),
    ((((bs.getD 12 0))) <<< 24) ||| ((((bs.getD 13 0))) <<< 16) ||| ((((bs.getD 14 0))) <<< 8) ||| (((bs.getD 15 0))),
    ((((bs.getD 16 0))) <<< 24) ||| ((((bs.getD 17 0))) <<< 16) ||| ((((bs.getD 18 0))) <<< 8) ||| (((bs.getD 19 0))),
    ((((bs.getD 20 0))) <<< 24) ||| ((((bs.getD 21 0))) <<< 16) ||| ((((bs.getD 22 0))) <<< 8) ||| (((bs.getD 23 0))),
    ((((bs.getD 24 0))) <<< 24) ||| ((((bs.getD 25 0))) <<< 16) ||| ((((bs.getD 26 0))) <<< 8) ||| (((bs.getD 27 0))),
    ((((bs.getD 28 0))) <<< 24) ||| ((((bs.getD 29 0))) <<< 16) ||| ((((bs.getD 30 0))) <<< 8) ||| (((bs.getD 31 0))) ]

def pack_bits_33 (v0 v1 v2 v3 v4 v5 v6 v7 : Nat) : List Nat :=
  [ u8 (((v0 >>> 25) &&& 0xff)),
    u8 (((v0 >>> 17) &&& 0xff)),
    u8 (((v0 >>> 9) &&& 0xff)),
    u8 (((v0 >>> 1) &&& 0xff)),
    u8 (((((v0) &&& 0x1) <<< 7) ||| ((v1 >>> 26) &&& 0x7f))),
    u8 (((v1 >>> 18) &&& 0xff)),
    u8 (((v1 >>> 10) &&& 0xff)),
    u8 (((v1 >>> 2) &&& 0xff)),
    u8 (((((v1) &&& 0x3) <<< 6) ||| ((v2 >>> 27) &&& 0x3f))),
    u8 (((v2 >>> 19) &&& 0xff)),
    u8 (((v2 >>> 11) &&& 0xff)),
    u8 (((v2 >>> 3) &&& 0xff)),
    u8 (((((v2) &&& 0x7) <<< 5) ||| ((v3 >>> 28) &&& 0x1f))),
    u8 (((v3 >>> 20) &&& 0xff)),
    u8 (((v3 >>> 12) &&& 0xff)),
    u8 (((v3 >>> 4) &&& 0xff)),
    u8 (((((v3) &&& 0xf) <<< 4) ||| ((v4 >>> 29) &&& 0xf))),
    u8 (((v4 >>> 21) &&& 0xff)),
    u8 (((v4 >>> 13) &&& 0xff)),
    u8 (((v4 >>> 5) &&& 0xff)),
    u8 (((((v4) &&& 0x1f) <<< 3) ||| ((v5 >>> 30) &&& 0x7))),
    u8 (((v5 >>> 22) &&& 0xff)),
    u8 (((v5 >>> 14) &&& 0xff)),
    u8 (((v5 >>> 6) &&& 0xff)),
    u8 (((((v5) &&& 0x3f) <<< 2) ||| ((v6 >>> 31) &&& 0x3))),
    u8 (((v6 >>> 23) &&& 0xff)),
    u8 (((v6 >>> 15) &&& 0xff)),
    u8 (((v6 >>> 7) &&& 0xff)),
    u8 (((((v6) &&& 0x7f) <<< 1) ||| ((v7 >>> 32) &&& 0x1))),
    u8 (((v7 >>> 24) &&& 0xff)),
    u8 (((v7 >>> 16) &&& 0xff)),
    u8 (((v7 >>> 8) &&& 0xff)),
    u8 (((v7) &&& 0xff)) ]

def unpack_bits_33 (bs : List Nat) : List Nat :=
  [ ((((bs.getD 0 0))) <<< 25) ||| ((((bs.getD 1 0))) <<< 17) ||| ((((bs.getD 2 0))) <<< 9) ||| ((((bs.getD 3 0))) <<< 1) ||| ((((bs.getD 4 0) >>> 7) &&& 0x1)),
    (((((bs.getD 4 0)) &&& 0x7f)) <<< 26) ||| ((((bs.getD 5 0))) <<< 18) ||| ((((bs.getD 6 0))) <<< 10) ||| ((((bs.getD 7 0))) <<< 2) ||| ((((bs.getD 8 0) >>> 6) &&& 0x3)),
    (((((bs.getD 8 0)) &&& 0x3f)) <<< 27) ||| ((((bs.getD 9 0))) <<< 19) ||| ((((bs.getD 10 0))) <<< 11) ||| ((((bs.getD 11 0))) <<< 3) ||| ((((bs.getD 12 0) >>> 5) &&& 0x7)),
    (((((bs.getD 12 0)) &&& 0x1f)) <<< 28) ||| ((((bs.getD 13 0))) <<< 20) ||| ((((bs.getD 14 0))) <<< 12) ||| ((((bs.getD 15 0))) <<< 4) ||| ((((bs.getD 16 0) >>> 4) &&& 0xf)),
    (((((bs.getD 16 0)) &&& 0xf)) <<< 29) ||| ((((bs.getD 17 0))) <<< 21) ||| ((((bs.getD 18 0))) <<< 13) ||| ((((bs.getD 19 0))) <<< 5) ||| ((((bs.getD 20 0) >>> 3) &&& 0x1f)),
    (((((bs.getD 20 0)) &&& 0x7)) <<< 30) ||| ((((bs.getD 21 0))) <<< 22) ||| ((((bs.getD 22 0))) <<< 14) ||| ((((bs.getD 23 0))) <<< 6) ||| ((((bs.getD 24 0) >>> 2) &&& 0x3f)),
    (((((bs.getD 24 0)) &&& 0x3)) <<< 31) ||| ((((bs.getD 25 0))) <<< 23) ||| ((((bs.getD 26 0))) <<< 15) ||| ((((bs.getD 27 0))) <<< 7) ||| ((((bs.getD 28 0) >>> 1) &&& 0x7f)),
    (((((bs.getD 28 0)) &&& 0x1)) <<< 32) ||| ((((bs.getD 29 0))) <<< 24) ||| ((((bs.getD 30 0))) <<< 16) ||| ((((bs.getD 31 0))) <<< 8) ||| (((bs.getD 32 0))) ]

def pack_bits_34 (v0 v1 v2 v3 v4 v5 v6 v7 : Nat) : List Nat :=
  [ u8 (((v0 >>> 26) &&& 0xff)),
    u8 (((v0 >>> 18) &&& 0xff)),
    u8 (((v0 >>> 10) &&& 0xff)),
    u8 (((v0 >>> 2) &&& 0xff)),
    u8 (((((v0) &&& 0x3) <<< 6) ||| ((v1 >>> 28) &&& 0x3f))),
    u8 (((v1 >>> 20) &&& 0xff)),
    u8 (((v1 >>> 12) &&& 0xff)),
    u8 (((v1 >>> 4) &&& 0xff)),
    u8 (((((v1) &&& 0xf) <<< 4) ||| ((v2 >>> 30) &&& 0xf))),
    u8 (((v2 >>> 22) &&& 0xff)),
    u8 (((v2 >>> 14) &&& 0xff)),
    u8 (((v2 >>> 6) &&& 0xff)),
    u8 (((((v2) &&& 0x3f) <<< 2) ||| ((v3 >>> 32) &&& 0x3))),
    u8 (((v3 >>> 24) &&& 0xff)),
    u8 (((v3 >>> 16) &&& 0xff)),
    u8 (((v3 >>> 8) &&& 0xff)),
    u8 (((v3) &&& 0xff)),
    u8 (((v4 >>> 26) &&& 0xff)),
    u8 (((v4 >>> 18) &&& 0xff)),
    u8 (((v4 >>> 10) &&& 0xff)),
    u8 (((v4 >>> 2) &&& 0xff)),
    u8 (((((v4) &&& 0x3) <<< 6) ||| ((v5 >>> 28) &&& 0x3f))),
    u8 (((v5 >>> 20) &&& 0xff)),
    u8 (((v5 >>> 12) &&& 0xff)),
    u8 (((v5 >>> 4) &&& 0xff)),
    u8 (((((v5) &&& 0xf) <<< 4) ||| ((v6 >>> 30) &&& 0xf))),
    u8 (((v6 >>> 22) &&& 0xff)),
    u8 (((v6 >>> 14) &&& 0xff)),
    u8 (((v6 >>> 6) &&& 0xff)),
    u8 (((((v6) &&& 0x3f) <<< 2) ||| ((v7 >>> 32) &&& 0x3))),
    u8 (((v7 >>> 24) &&& 0xff)),
    u8 (((v7 >>> 16) &&& 0xff)),
    u8 (((v7 >>> 8) &&& 0xff)),
    u8 (((v7) &&& 0xff)) ]

def unpack_bits_34 (bs : List Nat) : List Nat :=
  [ ((((bs.getD 0 0))) <<< 26) ||| ((((bs.getD 1 0))) <<< 18) ||| ((((bs.getD 2 0))) <<< 10) ||| ((((bs.getD 3 0))) <<< 2) ||| ((((bs.getD 4 0) >>> 6) &&& 0x3)),
    (((((bs.getD 4 0)) &&& 0x3f)) <<< 28) ||| ((((bs.getD 5 0))) <<< 20) ||| ((((bs.getD 6 0))) <<< 12) ||| ((((bs.getD 7 0))) <<< 4) ||| ((((bs.getD 8 0) >>> 4) &&& 0xf)),
    (((((bs.getD 8 0)) &&& 0xf)) <<< 30) ||| ((((bs.getD 9 0))) <<< 22) ||| ((((bs.getD 10 0))) <<< 14) ||| ((((bs.getD 11 0))) <<< 6) ||| ((((bs.getD 12 0) >>> 2) &&& 0x3f)),
    (((((bs.getD 12 0)) &&& 0x3)) <<< 32) ||| ((((bs.getD 13 0))) <<< 24) ||| ((((bs.getD 14 0))) <<< 16) ||| ((((bs.getD 15 0))) <<< 8) ||| (((bs.getD 16 0))),
    ((((bs.getD 17 0))) <<< 26) ||| ((((bs.getD 18 0))) <<< 18) ||| ((((bs.getD 19 0))) <<< 10) ||| ((((bs.getD 20 0))) <<< 2) ||| ((((bs.getD 21 0) >>> 6) &&& 0x3)),
    (((((bs.getD 21 0)) &&& 0x3f)) <<< 28) ||| ((((bs.getD 22 0))) <<< 20) ||| ((((bs.getD 23 0))) <<< 12) ||| ((((bs.getD 24 0))) <<< 4) ||| ((((bs.getD 25 0) >>> 4) &&& 0xf)),
    (((((bs.getD 25 0)) &&& 0xf)) <<< 30) ||| ((((bs.getD 26 0))) <<< 22) ||| ((((bs.getD 27 0))) <<< 14) ||| ((((bs.getD 28 0))) <<< 6) ||| ((((bs.getD 29 0) >>> 2) &&& 0x3f)),
    (((((bs.getD 29 0)) &&& 0x3)) <<< 32) ||| ((((bs.getD 30 0))) <<< 24) ||| ((((bs.getD 31 0))) <<< 16) ||| ((((bs.getD 32 0))) <<< 8) ||| (((bs.getD 33 0))) ]

def pack_bits_35 (v0 v1 v2 v3 v4 v5 v6 v7 : Nat) : List Nat :=
  [ u8 (((v0 >>> 27) &&& 0xff)),
    u8 (((v0 >>> 19) &&& 0xff)),
    u8 (((v0 >>> 11) &&& 0xff)),
    u8 (((v0 >>> 3) &&& 0xff)),
    u8 (((((v0) &&& 0x7) <<< 5) ||| ((v1 >>> 30) &&& 0x1f))),
    u8 (((v1 >>> 22) &&& 0xff)),
    u8 (((v1 >>> 14) &&& 0xff)),
    u8 (((v1 >>> 6) &&& 0xff)),
    u8 (((((v1) &&& 0x3f) <<< 2) ||| ((v2 >>> 33) &&& 0x3))),
    u8 (((v2 >>> 25) &&& 0xff)),
    u8 (((v2 >>> 17) &&& 0xff)),
    u8 (((v2 >>> 9) &&& 0xff)),
    u8 (((v2 >>> 1) &&& 0xff)),
    u8 (((((v2) &&& 0x1) <<< 7) ||| ((v3 >>> 28) &&& 0x7f))),
    u8 (((v3 >>> 20) &&& 0xff)),
    u8 (((v3 >>> 12) &&& 0xff)),
    u8 (((v3 >>> 4) &&& 0xff)),
    u8 (((((v3) &&& 0xf) <<< 4) ||| ((v4 >>> 31) &&& 0xf))),
    u8 (((v4 >>> 23) &&& 0xff)),
    u8 (((v4 >>> 15) &&& 0xff)),
    u8 (((v4 >>> 7) &&& 0xff)),
    u8 (((((v4) &&& 0x7f) <<< 1) ||| ((v5 >>> 34) &&& 0x1))),
    u8 (((v5 >>> 26) &&& 0xff)),
    u8 (((v5 >>> 18) &&& 0xff)),
    u8 (((v5 >>> 10) &&& 0xff)),
    u8 (((v5 >>> 2) &&& 0xff)),
    u8 (((((v5) &&& 0x3) <<< 6) ||| ((v6 >>> 29) &&& 0x3f))),
    u8 (((v6 >>> 21) &&& 0xff)),
    u8 (((v6 >>> 13) &&& 0xff)),
    u8 (((v6 >>> 5) &&& 0xff)),
    u8 (((((v6) &&& 0x1f) <<< 3) ||| ((v7 >>> 32) &&& 0x7))),
    u8 (((v7 >>> 24) &&& 0xff)),
    u8 (((v7 >>> 16) &&& 0xff)),
    u8 (((v7 >>> 8) &&& 0xff)),
    u8 (((v7) &&& 0xff)) ]

def unpack_bits_35 (bs : List Nat) : List Nat :=
  [ ((((bs.getD 0 0))) <<< 27) ||| ((((bs.getD 1 0))) <<< 19) ||| ((((bs.getD 2 0))) <<< 11) ||| ((((bs.getD 3 0))) <<< 3) ||| ((((bs.getD 4 0) >>> 5) &&& 0x7)),
    (((((bs.getD 4 0)) &&& 0x1f)) <<< 30) ||| ((((bs.getD 5 0))) <<< 22) ||| ((((bs.getD 6 0))) <<< 14) ||| ((((bs.getD 7 0))) <<< 6) ||| ((((bs.getD 8 0) >>> 2) &&& 0x3f)),
    (((((bs.getD 8 0)) &&& 0x3)) <<< 33) ||| ((((bs.getD 9 0))) <<< 25) ||| ((((bs.getD 10 0))) <<< 17) ||| ((((bs.getD 11 0))) <<< 9) ||| ((((bs.getD 12 0))) <<< 1) ||| ((((bs.getD 13 0) >>> 7) &&& 0x1)),
    (((((bs.getD 13 0)) &&& 0x7f)) <<< 28) ||| ((((bs.getD 14 0))) <<< 20) ||| ((((bs.getD 15 0))) <<< 12) ||| ((((bs.getD 16 0))) <<< 4) ||| ((((bs.getD 17 0) >>> 4) &&& 0xf)),
    (((((bs.getD 17 0)) &&& 0xf)) <<< 31) ||| ((((bs.getD 18 0))) <<< 23) ||| ((((bs.getD 19 0))) <<< 15) ||| ((((bs.getD 20 0))) <<< 7) ||| ((((bs.getD 21 0) >>> 1) &&& 0x7f)),
    (((((bs.getD 21 0)) &&& 0x1)) <<< 34) ||| ((((bs.getD 22 0))) <<< 26) ||| ((((bs.getD 23 0))) <<< 18) ||| ((((bs.getD 24 0))) <<< 10) ||| ((((bs.getD 25 0))) <<< 2) ||| ((((bs.getD 26 0) >>> 6) &&& 0x3)),
    (((((bs.getD 26 0)) &&& 0x3f)) <<< 29) ||| ((((bs.getD 27 0))) <<< 21) ||| ((((bs.getD 28 0))) <<< 13) ||| ((((bs.getD 29 0))) <<< 5) ||| ((((bs.getD 30 0) >>> 3) &&& 0x1f)),
    (((((bs.getD 30 0)) &&& 0x7)) <<< 32) ||| ((((bs.getD 31 0))) <<< 24) ||| ((((bs.getD 32 0))) <<< 16) ||| ((((bs.getD 33 0))) <<< 8) ||| (((bs.getD 34 0))) ]

def pack_bits_36 (v0 v1 v2 v3 v4 v5 v6 v7 : Nat) : List Nat :=
  [ u8 (((v0 >>> 28) &&& 0xff)),
    u8 (((v0 >>> 20) &&& 0xff)),
    u8 (((v0 >>> 12) &&& 0xff)),
    u8 (((v0 >>> 4) &&& 0xff)),
    u8 (((((v0) &&& 0xf) <<< 4) ||| ((v1 >>> 32) &&& 0xf))),
    u8 (((v1 >>> 24) &&& 0xff)),
    u8 (((v1 >>> 16) &&& 0xff)),
    u8 (((v1 >>> 8) &&& 0xff)),
    u8 (((v1) &&& 0xff)),
    u8 (((v2 >>> 28) &&& 0xff)),
    u8 (((v2 >>> 20) &&& 0xff)),
    u8 (((v2 >>> 12) &&& 0xff)),
    u8 (((v2 >>> 4) &&& 0xff)),
    u8 (((((v2) &&& 0xf) <<< 4) ||| ((v3 >>> 32) &&& 0xf))),
    u8 (((v3 >>> 24) &&& 0xff)),
    u8 (((v3 >>> 16) &&& 0xff)),
    u8 (((v3 >>> 8) &&& 0xff)),
    u8 (((v3) &&& 0xff)),
    u8 (((v4 >>> 28) &&& 0xff)),
    u8 (((v4 >>> 20) &&& 0xff)),
    u8 (((v4 >>> 12) &&& 0xff)),
    u8 (((v4 >>> 4) &&& 0xff)),
    u8 (((((v4) &&& 0xf) <<< 4) ||| ((v5 >>> 32) &&& 0xf))),
    u8 (((v5 >>> 24) &&& 0xff)),
    u8 (((v5 >>> 16) &&& 0xff)),
    u8 (((v5 >>> 8) &&& 0xff)),
    u8 (((v5) &&& 0xff)),
    u8 (((v6 >>> 28) &&& 0xff)),
    u8 (((v6 >>> 20) &&& 0xff)),
    u8 (((v6 >>> 12) &&& 0xff)),
    u8 (((v6 >>> 4) &&& 0xff)),
    u8 (((((v6) &&& 0xf) <<< 4) ||| ((v7 >>> 32) &&& 0xf))),
    u8 (((v7 >>> 24) &&& 0xff)),
    u8 (((v7 >>> 16) &&& 0xff)),
    u8 (((v7 >>> 8) &&& 0xff)),
    u8 (((v7) &&& 0xff)) ]

def unpack_bits_36 (bs : List Nat) : List Nat :=
  [ ((((bs.getD 0 0))) <<< 28) ||| ((((bs.getD 1 0))) <<< 20) ||| ((((bs.getD 2 0))) <<< 12) ||| ((((bs.getD 3 0))) <<< 4) ||| ((((bs.getD 4 0) >>> 4) &&& 0xf)),
    (((((bs.getD 4 0)) &&& 0xf)) <<< 32) ||| ((((bs.getD 5 0))) <<< 24) ||| ((((bs.getD 6 0))) <<< 16) ||| ((((bs.getD 7 0))) <<< 8) ||| (((bs.getD 8 0))),
    ((((bs.getD 9 0))) <<< 28) ||| ((((bs.getD 10 0))) <<< 20) ||| ((((bs.getD 11 0))) <<< 12) ||| ((((bs.getD 12 0))) <<< 4) ||| ((((bs.getD 13 0) >>> 4) &&& 0xf)),
    (((((bs.getD 13 0)) &&& 0xf)) <<< 32) ||| ((((bs.getD 14 0))) <<< 24) ||| ((((bs.getD 15 0))) <<< 16) ||| ((((bs.getD 16 0))) <<< 8) ||| (((bs.getD 17 0))),
    ((((bs.getD 18 0))) <<< 28) ||| ((((bs.getD 19 0))) <<< 20) ||| ((((bs.getD 20 0))) <<< 12) ||| ((((bs.getD 21 0))) <<< 4) ||| ((((bs.getD 22 0) >>> 4) &&& 0xf)),
    (((((bs.getD 22 0)) &&& 0xf)) <<< 32) ||| ((((bs.getD 23 0))) <<< 24) ||| ((((bs.getD 24 0))) <<< 16) ||| ((((bs.getD 25 0))) <<< 8) ||| (((bs.getD 26 0))),
    ((((bs.getD 27 0))) <<< 28) ||| ((((bs.getD 28 0))) <<< 20) ||| ((((bs.getD 29 0))) <<< 12) ||| ((((bs.getD 30 0))) <<< 4) ||| ((((bs.getD 31 0) >>> 4) &&& 0xf)),
    (((((bs.getD 31 0)) &&& 0xf)) <<< 32) ||| ((((bs.getD 32 0))) <<< 24) ||| ((((bs.getD 33 0))) <<< 16) ||| ((((bs.getD 34 0))) <<< 8) ||| (((bs.getD 35 0))) ]

def pack_bits_37 (v0 v1 v2 v3 v4 v5 v6 v7 : Nat) : List Nat :=
  [ u8 (((v0 >>> 29) &&& 0xff)),
    u8 (((v0 >>> 21) &&& 0xff)),
    u8 (((v0 >>> 13) &&& 0xff)),
    u8 (((v0 >>> 5) &&& 0xff)),
    u8 (((((v0) &&& 0x1f) <<< 3) ||| ((v1 >>> 34) &&& 0x7))),
    u8 (((v1 >>> 26) &&& 0xff)),
    u8 (((v1 >>> 18) &&& 0xff)),
    u8 (((v1 >>> 10) &&& 0xff)),
    u8 (((v1 >>> 2) &&& 0xff)),
    u8 (((((v1) &&& 0x3) <<< 6) ||| ((v2 >>> 31) &&& 0x3f))),
    u8 (((v2 >>> 23) &&& 0xff)),
    u8 (((v2 >>> 15) &&& 0xff)),
    u8 (((v2 >>> 7) &&& 0xff)),
    u8 (((((v2) &&& 0x7f) <<< 1) ||| ((v3 >>> 36) &&& 0x1))),
    u8 (((v3 >>> 28) &&& 0xff)),
    u8 (((v3 >>> 20) &&& 0xff)),
    u8 (((v3 >>> 12) &&& 0xff)),
    u8 (((v3 >>> 4) &&& 0xff)),
    u8 (((((v3) &&& 0xf) <<< 4) ||| ((v4 >>> 33) &&& 0xf))),
    u8 (((v4 >>> 25) &&& 0xff)),
    u8 (((v4 >>> 17) &&& 0xff)),
    u8 (((v4 >>> 9) &&& 0xff)),
    u8 (((v4 >>> 1) &&& 0xff)),
    u8 (((((v4) &&& 0x1) <<< 7) ||| ((v5 >>> 30) &&& 0x7f))),
    u8 (((v5 >>> 22) &&& 0xff)),
    u8 (((v5 >>> 14) &&& 0xff)),
    u8 (((v5 >>> 6) &&& 0xff)),
    u8 (((((v5) &&& 0x3f) <<< 2) ||| ((v6 >>> 35) &&& 0x3))),
    u8 (((v6 >>> 27) &&& 0xff)),
    u8 (((v6 >>> 19) &&& 0xff)),
    u8 (((v6 >>> 11) &&& 0xff)),
    u8 (((v6 >>> 3) &&& 0xff)),
    u8 (((((v6) &&& 0x7) <<< 5) ||| ((v7 >>> 32) &&& 0x1f))),
    u8 (((v7 >>> 24) &&& 0xff)),
    u8 (((v7 >>> 16) &&& 0xff)),
    u8 (((v7 >>> 8) &&& 0xff)),
    u8 (((v7) &&& 0xff)) ]

def unpack_bits_37 (bs : List Nat) : List Nat :=
  [ ((((bs.getD 0 0))) <<< 29) ||| ((((bs.getD 1 0))) <<< 21) ||| ((((bs.getD 2 0))) <<< 13) ||| ((((bs.getD 3 0))) <<< 5) ||| ((((bs.getD 4 0) >>> 3) &&& 0x1f)),
    (((((bs.getD 4 0)) &&& 0x7)) <<< 34) ||| ((((bs.getD 5 0))) <<< 26) ||| ((((bs.getD 6 0))) <<< 18) ||| ((((bs.getD 7 0))) <<< 10) ||| ((((bs.getD 8 0))) <<< 2) ||| ((((bs.getD 9 0) >>> 6) &&& 0x3)),
    (((((bs.getD 9 0)) &&& 0x3f)) <<< 31) ||| ((((bs.getD 10 0))) <<< 23) ||| ((((bs.getD 11 0))) <<< 15) ||| ((((bs.getD 12 0))) <<< 7) ||| ((((bs.getD 13 0) >>> 1) &&& 0x7f)),
    (((((bs.getD 13 0)) &&& 0x1)) <<< 36) ||| ((((bs.getD 14 0))) <<< 28) ||| ((((bs.getD 15 0))) <<< 20) ||| ((((bs.getD 16 0))) <<< 12) ||| ((((bs.getD 17 0))) <<< 4) ||| ((((bs.getD 18 0) >>> 4) &&& 0xf)),
    (((((bs.getD 18 0)) &&& 0xf)) <<< 33) ||| ((((bs.getD 19 0))) <<< 25) ||| ((((bs.getD 20 0))) <<< 17) ||| ((((bs.getD 21 0))) <<< 9) ||| ((((bs.getD 22 0))) <<< 1) ||| ((((bs.getD 23 0) >>> 7) &&& 0x1)),
    (((((bs.getD 23 0)) &&& 0x7f)) <<< 30) ||| ((((bs.getD 24 0))) <<< 22) ||| ((((bs.getD 25 0))) <<< 14) ||| ((((bs.getD 26 0))) <<< 6) ||| ((((bs.getD 27 0) >>> 2) &&& 0x3f)),
    (((((bs.getD 27 0)) &&& 0x3)) <<< 35) ||| ((((bs.getD 28 0))) <<< 27) ||| ((((bs.getD 29 0))) <<< 19) ||| ((((bs.getD 30 0))) <<< 11) ||| ((((bs.getD 31 0))) <<< 3) ||| ((((bs.getD 32 0) >>> 5) &&& 0x7)),
    (((((bs.getD 32 0)) &&& 0x1f)) <<< 32) ||| ((((bs.getD 33 0))) <<< 24) ||| ((((bs.getD 34 0))) <<< 16) ||| ((((bs.getD 35 0))) <<< 8) ||| (((bs.getD 36 0))) ]

def pack_bits_38 (v0 v1 v2 v3 v4 v5 v6 v7 : Nat) : List Nat :=
  [ u8 (((v0 >>> 30) &&& 0xff)),
    u8 (((v0 >>> 22) &&& 0xff)),
    u8 (((v0 >>> 14) &&& 0xff)),
    u8 (((v0 >>> 6) &&& 0xff)),
    u8 (((((v0) &&& 0x3f) <<< 2) ||| ((v1 >>> 36) &&& 0x3))),
    u8 (((v1 >>> 28) &&& 0xff)),
    u8 (((v1 >>> 20) &&& 0xff)),
    u8 (((v1 >>> 12) &&& 0xff)),
    u8 (((v1 >>> 4) &&& 0xff)),
    u8 (((((v1) &&& 0xf) <<< 4) ||| ((v2 >>> 34) &&& 0xf))),
    u8 (((v2 >>> 26) &&& 0xff)),
    u8 (((v2 >>> 18) &&& 0xff)),
    u8 (((v2 >>> 10) &&& 0xff)),
    u8 (((v2 >>> 2) &&& 0xff)),
    u8 (((((v2) &&& 0x3) <<< 6) ||| ((v3 >>> 32) &&& 0x3f))),
    u8 (((v3 >>> 24) &&& 0xff)),
    u8 (((v3 >>> 16) &&& 0xff)),
    u8 (((v3 >>> 8) &&& 0xff)),
    u8 (((v3) &&& 0xff)),
    u8 (((v4 >>> 30) &&& 0xff)),
    u8 (((v4 >>> 22) &&& 0xff)),
    u8 (((v4 >>> 14) &&& 0xff)),
    u8 (((v4 >>> 6) &&& 0xff)),
    u8 (((((v4) &&& 0x3f) <<< 2) ||| ((v5 >>> 36) &&& 0x3))),
    u8 (((v5 >>> 28) &&& 0xff)),
    u8 (((v5 >>> 20) &&& 0xff)),
    u8 (((v5 >>> 12) &&& 0xff)),
    u8 (((v5 >>> 4) &&& 0xff)),
    u8 (((((v5) &&& 0xf) <<< 4) ||| ((v6 >>> 34) &&& 0xf))),
    u8 (((v6 >>> 26) &&& 0xff)),
    u8 (((v6 >>> 18) &&& 0xff)),
    u8 (((v6 >>> 10) &&& 0xff)),
    u8 (((v6 >>> 2) &&& 0xff)),
    u8 (((((v6) &&& 0x3) <<< 6) ||| ((v7 >>> 32) &&& 0x3f))),
    u8 (((v7 >>> 24) &&& 0xff)),
    u8 (((v7 >>> 16) &&& 0xff)),
    u8 (((v7 >>> 8) &&& 0xff)),
    u8 (((v7) &&& 0xff)) ]

def unpack_bits_38 (bs : List Nat) : List Nat :=
  [ ((((bs.getD 0 0))) <<< 30) ||| ((((bs.getD 1 0))) <<< 22) ||| ((((bs.getD 2 0))) <<< 14) ||| ((((bs.getD 3 0))) <<< 6) ||| ((((bs.getD 4 0) >>> 2) &&& 0x3f)),
    (((((bs.getD 4 0)) &&& 0x3)) <<< 36) ||| ((((bs.getD 5 0))) <<< 28) ||| ((((bs.getD 6 0))) <<< 20) ||| ((((bs.getD 7 0))) <<< 12) ||| ((((bs.getD 8 0))) <<< 4) ||| ((((bs.getD 9 0) >>> 4) &&& 0xf)),
    (((((bs.getD 9 0)) &&& 0xf)) <<< 34) ||| ((((bs.getD 10 0))) <<< 26) ||| ((((bs.getD 11 0))) <<< 18) ||| ((((bs.getD 12 0))) <<< 10) ||| ((((bs.getD 13 0))) <<< 2) ||| ((((bs.getD 14 0) >>> 6) &&& 0x3)),
    (((((bs.getD 14 0)) &&& 0x3f)) <<< 32) ||| ((((bs.getD 15 0))) <<< 24) ||| ((((bs.getD 16 0))) <<< 16) ||| ((((bs.getD 17 0))) <<< 8) ||| (((bs.getD 18 0))),
    ((((bs.getD 19 0))) <<< 30) ||| ((((bs.getD 20 0))) <<< 22) ||| ((((bs.getD 21 0))) <<< 14) ||| ((((bs.getD 22 0))) <<< 6) ||| ((((bs.getD 23 0) >>> 2) &&& 0x3f)),
    (((((bs.getD 23 0)) &&& 0x3)) <<< 36) ||| ((((bs.getD 24 0))) <<< 28) ||| ((((bs.getD 25 0))) <<< 20) ||| ((((bs.getD 26 0))) <<< 12) ||| ((((bs.getD 27 0))) <<< 4) ||| ((((bs.getD 28 0) >>> 4) &&& 0xf)),
    (((((bs.getD 28 0)) &&& 0xf)) <<< 34) ||| ((((bs.getD 29 0))) <<< 26) ||| ((((bs.getD 30 0))) <<< 18) ||| ((((bs.getD 31 0))) <<< 10) ||| ((((bs.getD 32 0))) <<< 2) ||| ((((bs.getD 33 0) >>> 6) &&& 0x3)),
    (((((bs.getD 33 0)) &&& 0x3f)) <<< 32) ||| ((((bs.getD 34 0))) <<< 24) ||| ((((bs.getD 35 0))) <<< 16) ||| ((((bs.getD 36 0))) <<< 8) ||| (((bs.getD 37 0))) ]

def pack_bits_39 (v0 v1 v2 v3 v4 v5 v6 v7 : Nat) : List Nat :=
  [ u8 (((v0 >>> 31) &&& 0xff)),
    u8 (((v0 >>> 23) &&& 0xff)),
    u8 (((v0 >>> 15) &&& 0xff)),
    u8 (((v0 >>> 7) &&& 0xff)),
    u8 (((((v0) &&& 0x7f) <<< 1) ||| ((v1 >>> 38) &&& 0x1))),
    u8 (((v1 >>> 30) &&& 0xff)),
    u8 (((v1 >>> 22) &&& 0xff)),
    u8 (((v1 >>> 14) &&& 0xff)),
    u8 (((v1 >>> 6) &&& 0xff)),
    u8 (((((v1) &&& 0x3f) <<< 2) ||| ((v2 >>> 37) &&& 0x3))),
    u8 (((v2 >>> 29) &&& 0xff)),
    u8 (((v2 >>> 21) &&& 0xff)),
    u8 (((v2 >>> 13) &&& 0xff)),
    u8 (((v2 >>> 5) &&& 0xff)),
    u8 (((((v2) &&& 0x1f) <<< 3) ||| ((v3 >>> 36) &&& 0x7))),
    u8 (((v3 >>> 28) &&& 0xff)),
    u8 (((v3 >>> 20) &&& 0xff)),
    u8 (((v3 >>> 12) &&& 0xff)),
    u8 (((v3 >>> 4) &&& 0xff)),
    u8 (((((v3) &&& 0xf) <<< 4) ||| ((v4 >>> 35) &&& 0xf))),
    u8 (((v4 >>> 27) &&& 0xff)),
    u8 (((v4 >>> 19) &&& 0xff)),
    u8 (((v4 >>> 11) &&& 0xff)),
    u8 (((v4 >>> 3) &&& 0xff)),
    u8 (((((v4) &&& 0x7) <<< 5) ||| ((v5 >>> 34) &&& 0x1f))),
    u8 (((v5 >>> 26) &&& 0xff)),
    u8 (((v5 >>> 18) &&& 0xff)),
    u8 (((v5 >>> 10) &&& 0xff)),
    u8 (((v5 >>> 2) &&& 0xff)),
    u8 (((((v5) &&& 0x3) <<< 6) ||| ((v6 >>> 33) &&& 0x3f))),
    u8 (((v6 >>> 25) &&& 0xff)),
    u8 (((v6 >>> 17) &&& 0xff)),
    u8 (((v6 >>> 9) &&& 0xff)),
    u8 (((v6 >>> 1) &&& 0xff)),
    u8 (((((v6) &&& 0x1) <<< 7) ||| ((v7 >>> 32) &&& 0x7f))),
    u8 (((v7 >>> 24) &&& 0xff)),
    u8 (((v7 >>> 16) &&& 0xff)),
    u8 (((v7 >>> 8) &&& 0xff)),
    u8 (((v7) &&& 0xff)) ]

def unpack_bits_39 (bs : List Nat) : List Nat :=
  [ ((((bs.getD 0 0))) <<< 31) ||| ((((bs.getD 1 0))) <<< 23) ||| ((((bs.getD 2 0))) <<< 15) ||| ((((bs.getD 3 0))) <<< 7) ||| ((((bs.getD 4 0) >>> 1) &&& 0x7f)),
    (((((bs.getD 4 0)) &&& 0x1)) <<< 38) ||| ((((bs.getD 5 0))) <<< 30) ||| ((((bs.getD 6 0))) <<< 22) ||| ((((bs.getD 7 0))) <<< 14) ||| ((((bs.getD 8 0))) <<< 6) ||| ((((bs.getD 9 0) >>> 2) &&& 0x3f)),
    (((((bs.getD 9 0)) &&& 0x3)) <<< 37) ||| ((((bs.getD 10 0))) <<< 29) ||| ((((bs.getD 11 0))) <<< 21) ||| ((((bs.getD 12 0))) <<< 13) ||| ((((bs.getD 13 0))) <<< 5) ||| ((((bs.getD 14 0) >>> 3) &&& 0x1f)),
    (((((bs.getD 14 0)) &&& 0x7)) <<< 36) ||| ((((bs.getD 15 0))) <<< 28) ||| ((((bs.getD 16 0))) <<< 20) ||| ((((bs.getD 17 0))) <<< 12) ||| ((((bs.getD 18 0))) <<< 4) ||| ((((bs.getD 19 0) >>> 4) &&& 0xf)),
    (((((bs.getD 19 0)) &&& 0xf)) <<< 35) ||| ((((bs.getD 20 0))) <<< 27) ||| ((((bs.getD 21 0))) <<< 19) ||| ((((bs.getD 22 0))) <<< 11) ||| ((((bs.getD 23 0))) <<< 3) ||| ((((bs.getD 24 0) >>> 5) &&& 0x7)),
    (((((bs.getD 24 0)) &&& 0x1f)) <<< 34) ||| ((((bs.getD 25 0))) <<< 26) ||| ((((bs.getD 26 0))) <<< 18) ||| ((((bs.getD 27 0))) <<< 10) ||| ((((bs.getD 28 0))) <<< 2) ||| ((((bs.getD 29 0) >>> 6) &&& 0x3)),
    (((((bs.getD 29 0)) &&& 0x3f)) <<< 33) ||| ((((bs.getD 30 0))) <<< 25) ||| ((((bs.getD 31 0))) <<< 17) ||| ((((bs.getD 32 0))) <<< 9) ||| ((((bs.getD 33 0))) <<< 1) ||| ((((bs.getD 34 0) >>> 7) &&& 0x1)),
    (((((bs.getD 34 0)) &&& 0x7f)) <<< 32) ||| ((((bs.getD 35 0))) <<< 24) ||| ((((bs.getD 36 0))) <<< 16) ||| ((((bs.getD 37 0))) <<< 8) ||| (((bs.getD 38 0))) ]

def pack_bits_40 (v0 v1 v2 v3 v4 v5 v6 v7 : Nat) : List Nat :=
  [ u8 (((v0 >>> 32) &&& 0xff)),
    u8 (((v0 >>> 24) &&& 0xff)),
    u8 (((v0 >>> 16) &&& 0xff)),
    u8 (((v0 >>> 8) &&& 0xff)),
    u8 (((v0) &&& 0xff)),
    u8 (((v1 >>> 32) &&& 0xff)),
    u8 (((v1 >>> 24) &&& 0xff)),
    u8 (((v1 >>> 16) &&& 0xff)),
    u8 (((v1 >>> 8) &&& 0xff)),
    u8 (((v1) &&& 0xff)),
    u8 (((v2 >>> 32) &&& 0xff)),
    u8 (((v2 >>> 24) &&& 0xff)),
    u8 (((v2 >>> 16) &&& 0xff)),
    u8 (((v2 >>> 8) &&& 0xff)),
    u8 (((v2) &&& 0xff)),
    u8 (((v3 >>> 32) &&& 0xff)),
    u8 (((v3 >>> 24) &&& 0xff)),
    u8 (((v3 >>> 16) &&& 0xff)),
    u8 (((v3 >>> 8) &&& 0xff)),
    u8 (((v3) &&& 0xff)),
    u8 (((v4 >>> 32) &&& 0xff)),
    u8 (((v4 >>> 24) &&& 0xff)),
    u8 (((v4 >>> 16) &&& 0xff)),
    u8 (((v4 >>> 8) &&& 0xff)),
    u8 (((v4) &&& 0xff)),
    u8 (((v5 >>> 32) &&& 0xff)),
    u8 (((v5 >>> 24) &&& 0xff)),
    u8 (((v5 >>> 16) &&& 0xff)),
    u8 (((v5 >>> 8) &&& 0xff)),
    u8 (((v5) &&& 0xff)),
    u8 (((v6 >>> 32) &&& 0xff)),
    u8 (((v6 >>> 24) &&& 0xff)),
    u8 (((v6 >>> 16) &&& 0xff)),
    u8 (((v6 >>> 8) &&& 0xff)),
    u8 (((v6) &&& 0xff)),
    u8 (((v7 >>> 32) &&& 0xff)),
    u8 (((v7 >>> 24) &&& 0xff)),
    u8 (((v7 >>> 16) &&& 0xff)),
    u8 (((v7 >>> 8) &&& 0xff)),
    u8 (((v7) &&& 0xff)) ]

def unpack_bits_40 (bs : List Nat) : List Nat :=
  [ ((((bs.getD 0 0))) <<< 32) ||| ((((bs.getD 1 0))) <<< 24) ||| ((((bs.getD 2 0))) <<< 16) ||| ((((bs.getD 3 0))) <<< 8) ||| (((bs.getD 4 0))),
    ((((bs.getD 5 0))) <<< 32) ||| ((((bs.getD 6 0))) <<< 24) ||| ((((bs.getD 7 0))) <<< 16) ||| ((((bs.getD 8 0))) <<< 8) ||| (((bs.getD 9 0))),
    ((((bs.getD 10 0))) <<< 32) ||| ((((bs.getD 11 0))) <<< 24) ||| ((((bs.getD 12 0))) <<< 16) ||| ((((bs.getD 13 0))) <<< 8) ||| (((bs.getD 14 0))),
    ((((bs.getD 15 0))) <<< 32) ||| ((((bs.getD 16 0))) <<< 24) ||| ((((bs.getD 17 0))) <<< 16) ||| ((((bs.getD 18 0))) <<< 8) ||| (((bs.getD 19 0))),
    ((((bs.getD 20 0))) <<< 32) ||| ((((bs.getD 21 0))) <<< 24) ||| ((((bs.getD 22 0))) <<< 16) ||| ((((bs.getD 23 0))) <<< 8) ||| (((bs.getD 24 0))),
    ((((bs.getD 25 0))) <<< 32) ||| ((((bs.getD 26 0))) <<< 24) ||| ((((bs.getD 27 0))) <<< 16) ||| ((((bs.getD 28 0))) <<< 8) ||| (((bs.getD 29 0))),
    ((((bs.getD 30 0))) <<< 32) ||| ((((bs.getD 31 0))) <<< 24) ||| ((((bs.getD 32 0))) <<< 16) ||| ((((bs.getD 33 0))) <<< 8) ||| (((bs.getD 34 0))),
    ((((bs.getD 35 0))) <<< 32) ||| ((((bs.getD 36 0))) <<< 24) ||| ((((bs.getD 37 0))) <<< 16) ||| ((((bs.getD 38 0))) <<< 8) ||| (((bs.getD 39 0))) ]

def pack_bits_41 (v0 v1 v2 v3 v4 v5 v6 v7 : Nat) : List Nat :=
  [ u8 (((v0 >>> 33) &&& 0xff)),
    u8 (((v0 >>> 25) &&& 0xff)),
    u8 (((v0 >>> 17) &&& 0xff)),
    u8 (((v0 >>> 9) &&& 0xff)),
    u8 (((v0 >>> 1) &&& 0xff)),
    u8 (((((v0) &&& 0x1) <<< 7) ||| ((v1 >>> 34) &&& 0x7f))),
    u8 (((v1 >>> 26) &&& 0xff)),
    u8 (((v1 >>> 18) &&& 0xff)),
    u8 (((v1 >>> 10) &&& 0xff)),
    u8 (((v1 >>> 2) &&& 0xff)),
    u8 (((((v1) &&& 0x3) <<< 6) ||| ((v2 >>> 35) &&& 0x3f))),
    u8 (((v2 >>> 27) &&& 0xff)),
    u8 (((v2 >>> 19) &&& 0xff)),
    u8 (((v2 >>> 11) &&& 0xff)),
    u8 (((v2 >>> 3) &&& 0xff)),
    u8 (((((v2) &&& 0x7) <<< 5) ||| ((v3 >>> 36) &&& 0x1f))),
    u8 (((v3 >>> 28) &&& 0xff)),
    u8 (((v3 >>> 20) &&& 0xff)),
    u8 (((v3 >>> 12) &&& 0xff)),
    u8 (((v3 >>> 4) &&& 0xff)),
    u8 (((((v3) &&& 0xf) <<< 4) ||| ((v4 >>> 37) &&& 0xf))),
    u8 (((v4 >>> 29) &&& 0xff)),
    u8 (((v4 >>> 21) &&& 0xff)),
    u8 (((v4 >>> 13) &&& 0xff)),
    u8 (((v4 >>> 5) &&& 0xff)),
    u8 (((((v4) &&& 0x1f) <<< 3) ||| ((v5 >>> 38) &&& 0x7))),
    u8 (((v5 >>> 30) &&& 0xff)),
    u8 (((v5 >>> 22) &&& 0xff)),
    u8 (((v5 >>> 14) &&& 0xff)),
    u8 (((v5 >>> 6) &&& 0xff)),
    u8 (((((v5) &&& 0x3f) <<< 2) ||| ((v6 >>> 39) &&& 0x3))),
    u8 (((v6 >>> 31) &&& 0xff)),
    u8 (((v6 >>> 23) &&& 0xff)),
    u8 (((v6 >>> 15) &&& 0xff)),
    u8 (((v6 >>> 7) &&& 0xff)),
    u8 (((((v6) &&& 0x7f) <<< 1) ||| ((v7 >>> 40) &&& 0x1))),
    u8 (((v7 >>> 32) &&& 0xff)),
    u8 (((v7 >>> 24) &&& 0xff)),
    u8 (((v7 >>> 16) &&& 0xff)),
    u8 (((v7 >>> 8) &&& 0xff)),
    u8 (((v7) &&& 0xff)) ]

def unpack_bits_41 (bs : List Nat) : List Nat :=
  [ ((((bs.getD 0 0))) <<< 33) ||| ((((bs.getD 1 0))) <<< 25) ||| ((((bs.getD 2 0))) <<< 17) ||| ((((bs.getD 3 0))) <<< 9) ||| ((((bs.getD 4 0))) <<< 1) ||| ((((bs.getD 5 0) >>> 7) &&& 0x1)),
    (((((bs.getD 5 0)) &&& 0x7f)) <<< 34) ||| ((((bs.getD 6 0))) <<< 26) ||| ((((bs.getD 7 0))) <<< 18) ||| ((((bs.getD 8 0))) <<< 10) ||| ((((bs.getD 9 0))) <<< 2) ||| ((((bs.getD 10 0) >>> 6) &&& 0x3)),
    (((((bs.getD 10 0)) &&& 0x3f)) <<< 35) ||| ((((bs.getD 11 0))) <<< 27) ||| ((((bs.getD 12 0))) <<< 19) ||| ((((bs.getD 13 0))) <<< 11) ||| ((((bs.getD 14 0))) <<< 3) ||| ((((bs.getD 15 0) >>> 5) &&& 0x7)),
    (((((bs.getD 15 0)) &&& 0x1f)) <<< 36) ||| ((((bs.getD 16 0))) <<< 28) ||| ((((bs.getD 17 0))) <<< 20) ||| ((((bs.getD 18 0))) <<< 12) ||| ((((bs.getD 19 0))) <<< 4) ||| ((((bs.getD 20 0) >>> 4) &&& 0xf)),
    (((((bs.getD 20 0)) &&& 0xf)) <<< 37) ||| ((((bs.getD 21 0))) <<< 29) ||| ((((bs.getD 22 0))) <<< 21) ||| ((((bs.getD 23 0))) <<< 13) ||| ((((bs.getD 24 0))) <<< 5) ||| ((((bs.getD 25 0) >>> 3) &&& 0x1f)),
    (((((bs.getD 25 0)) &&& 0x7)) <<< 38) ||| ((((bs.getD 26 0))) <<< 30) ||| ((((bs.getD 27 0))) <<< 22) ||| ((((bs.getD 28 0))) <<< 14) ||| ((((bs.getD 29 0))) <<< 6) ||| ((((bs.getD 30 0) >>> 2) &&& 0x3f)),
    (((((bs.getD 30 0)) &&& 0x3)) <<< 39) ||| ((((bs.getD 31 0))) <<< 31) ||| ((((bs.getD 32 0))) <<< 23) ||| ((((bs.getD 33 0))) <<< 15) ||| ((((bs.getD 34 0))) <<< 7) ||| ((((bs.getD 35 0) >>> 1) &&& 0x7f)),
    (((((bs.getD 35 0)) &&& 0x1)) <<< 40) ||| ((((bs.getD 36 0))) <<< 32) ||| ((((bs.getD 37 0))) <<< 24) ||| ((((bs.getD 38 0))) <<< 16) ||| ((((bs.getD 39 0))) <<< 8) ||| (((bs.getD 40 0))) ]

def pack_bits_42 (v0 v1 v2 v3 v4 v5 v6 v7 : Nat) : List Nat :=
  [ u8 (((v0 >>> 34) &&& 0xff)),
    u8 (((v0 >>> 26) &&& 0xff)),
    u8 (((v0 >>> 18) &&& 0xff)),
    u8 (((v0 >>> 10) &&& 0xff)),
    u8 (((v0 >>> 2) &&& 0xff)),
    u8 (((((v0) &&& 0x3) <<< 6) ||| ((v1 >>> 36) &&& 0x3f))),
    u8 (((v1 >>> 28) &&& 0xff)),
    u8 (((v1 >>> 20) &&& 0xff)),
    u8 (((v1 >>> 12) &&& 0xff)),
    u8 (((v1 >>> 4) &&& 0xff)),
    u8 (((((v1) &&& 0xf) <<< 4) ||| ((v2 >>> 38) &&& 0xf))),
    u8 (((v2 >>> 30) &&& 0xff)),
    u8 (((v2 >>> 22) &&& 0xff)),
    u8 (((v2 >>> 14) &&& 0xff)),
    u8 (((v2 >>> 6) &&& 0xff)),
    u8 (((((v2) &&& 0x3f) <<< 2) ||| ((v3 >>> 40) &&& 0x3))),
    u8 (((v3 >>> 32) &&& 0xff)),
    u8 (((v3 >>> 24) &&& 0xff)),
    u8 (((v3 >>> 16) &&& 0xff)),
    u8 (((v3 >>> 8) &&& 0xff)),
    u8 (((v3) &&& 0xff)),
    u8 (((v4 >>> 34) &&& 0xff)),
    u8 (((v4 >>> 26) &&& 0xff)),
    u8 (((v4 >>> 18) &&& 0xff)),
    u8 (((v4 >>> 10) &&& 0xff)),
    u8 (((v4 >>> 2) &&& 0xff)),
    u8 (((((v4) &&& 0x3) <<< 6) ||| ((v5 >>> 36) &&& 0x3f))),
    u8 (((v5 >>> 28) &&& 0xff)),
    u8 (((v5 >>> 20) &&& 0xff)),
    u8 (((v5 >>> 12) &&& 0xff)),
    u8 (((v5 >>> 4) &&& 0xff)),
    u8 (((((v5) &&& 0xf) <<< 4) ||| ((v6 >>> 38) &&& 0xf))),
    u8 (((v6 >>> 30) &&& 0xff)),
    u8 (((v6 >>> 22) &&& 0xff)),
    u8 (((v6 >>> 14) &&& 0xff)),
    u8 (((v6 >>> 6) &&& 0xff)),
    u8 (((((v6) &&& 0x3f) <<< 2) ||| ((v7 >>> 40) &&& 0x3))),
    u8 (((v7 >>> 32) &&& 0xff)),
    u8 (((v7 >>> 24) &&& 0xff)),
    u8 (((v7 >>> 16) &&& 0xff)),
    u8 (((v7 >>> 8) &&& 0xff)),
    u8 (((v7) &&& 0xff)) ]

def unpack_bits_42 (bs : List Nat) : List Nat :=
  [ ((((bs.getD 0 0))) <<< 34) ||| ((((bs.getD 1 0))) <<< 26) ||| ((((bs.getD 2 0))) <<< 18) ||| ((((bs.getD 3 0))) <<< 10) ||| ((((bs.getD 4 0))) <<< 2) ||| ((((bs.getD 5 0) >>> 6) &&& 0x3)),
    (((((bs.getD 5 0)) &&& 0x3f)) <<< 36) ||| ((((bs.getD 6 0))) <<< 28) ||| ((((bs.getD 7 0))) <<< 20) ||| ((((bs.getD 8 0))) <<< 12) ||| ((((bs.getD 9 0))) <<< 4) ||| ((((bs.getD 10 0) >>> 4) &&& 0xf)),
    (((((bs.getD 10 0)) &&& 0xf)) <<< 38) ||| ((((bs.getD 11 0))) <<< 30) ||| ((((bs.getD 12 0))) <<< 22) ||| ((((bs.getD 13 0))) <<< 14) ||| ((((bs.getD 14 0))) <<< 6) ||| ((((bs.getD 15 0) >>> 2) &&& 0x3f)),
    (((((bs.getD 15 0)) &&& 0x3)) <<< 40) ||| ((((bs.getD 16 0))) <<< 32) ||| ((((bs.getD 17 0))) <<< 24) ||| ((((bs.getD 18 0))) <<< 16) ||| ((((bs.getD 19 0))) <<< 8) ||| (((bs.getD 20 0))),
    ((((bs.getD 21 0))) <<< 34) ||| ((((bs.getD 22 0))) <<< 26) ||| ((((bs.getD 23 0))) <<< 18) ||| ((((bs.getD 24 0))) <<< 10) ||| ((((bs.getD 25 0))) <<< 2) ||| ((((bs.getD 26 0) >>> 6) &&& 0x3)),
    (((((bs.getD 26 0)) &&& 0x3f)) <<< 36) ||| ((((bs.getD 27 0))) <<< 28) ||| ((((bs.getD 28 0))) <<< 20) ||| ((((bs.getD 29 0))) <<< 12) ||| ((((bs.getD 30 0))) <<< 4) ||| ((((bs.getD 31 0) >>> 4) &&& 0xf)),
    (((((bs.getD 31 0)) &&& 0xf)) <<< 38) ||| ((((bs.getD 32 0))) <<< 30) ||| ((((bs.getD 33 0))) <<< 22) ||| ((((bs.getD 34 0))) <<< 14) ||| ((((bs.getD 35 0))) <<< 6) ||| ((((bs.getD 36 0) >>> 2) &&& 0x3f)),
    (((((bs.getD 36 0)) &&& 0x3)) <<< 40) ||| ((((bs.getD 37 0))) <<< 32) ||| ((((bs.getD 38 0))) <<< 24) ||| ((((bs.getD 39 0))) <<< 16) ||| ((((bs.getD 40 0))) <<< 8) ||| (((bs.getD 41 0))) ]

def pack_bits_43 (v0 v1 v2 v3 v4 v5 v6 v7 : Nat) : List Nat :=
  [ u8 (((v0 >>> 35) &&& 0xff)),
    u8 (((v0 >>> 27) &&& 0xff)),
    u8 (((v0 >>> 19) &&& 0xff)),
    u8 (((v0 >>> 11) &&& 0xff)),
    u8 (((v0 >>> 3) &&& 0xff)),
    u8 (((((v0) &&& 0x7) <<< 5) ||| ((v1 >>> 38) &&& 0x1f))),
    u8 (((v1 >>> 30) &&& 0xff)),
    u8 (((v1 >>> 22) &&& 0xff)),
    u8 (((v1 >>> 14) &&& 0xff)),
    u8 (((v1 >>> 6) &&& 0xff)),
    u8 (((((v1) &&& 0x3f) <<< 2) ||| ((v2 >>> 41) &&& 0x3))),
    u8 (((v2 >>> 33) &&& 0xff)),
    u8 (((v2 >>> 25) &&& 0xff)),
    u8 (((v2 >>> 17) &&& 0xff)),
    u8 (((v2 >>> 9) &&& 0xff)),
    u8 (((v2 >>> 1) &&& 0xff)),
    u8 (((((v2) &&& 0x1) <<< 7) ||| ((v3 >>> 36) &&& 0x7f))),
    u8 (((v3 >>> 28) &&& 0xff)),
    u8 (((v3 >>> 20) &&& 0xff)),
    u8 (((v3 >>> 12) &&& 0xff)),
    u8 (((v3 >>> 4) &&& 0xff)),
    u8 (((((v3) &&& 0xf) <<< 4) ||| ((v4 >>> 39) &&& 0xf))),
    u8 (((v4 >>> 31) &&& 0xff)),
    u8 (((v4 >>> 23) &&& 0xff)),
    u8 (((v4 >>> 15) &&& 0xff)),
    u8 (((v4 >>> 7) &&& 0xff)),
    u8 (((((v4) &&& 0x7f) <<< 1) ||| ((v5 >>> 42) &&& 0x1))),
    u8 (((v5 >>> 34) &&& 0xff)),
    u8 (((v5 >>> 26) &&& 0xff)),
    u8 (((v5 >>> 18) &&& 0xff)),
    u8 (((v5 >>> 10) &&& 0xff)),
    u8 (((v5 >>> 2) &&& 0xff)),
    u8 (((((v5) &&& 0x3) <<< 6) ||| ((v6 >>> 37) &&& 0x3f))),
    u8 (((v6 >>> 29) &&& 0xff)),
    u8 (((v6 >>> 21) &&& 0xff)),
    u8 (((v6 >>> 13) &&& 0xff)),
    u8 (((v6 >>> 5) &&& 0xff)),
    u8 (((((v6) &&& 0x1f) <<< 3) ||| ((v7 >>> 40) &&& 0x7))),
    u8 (((v7 >>> 32) &&& 0xff)),
    u8 (((v7 >>> 24) &&& 0xff)),
    u8 (((v7 >>> 16) &&& 0xff)),
    u8 (((v7 >>> 8) &&& 0xff)),
    u8 (((v7) &&& 0xff)) ]

def unpack_bits_43 (bs : List Nat) : List Nat :=
  [ ((((bs.getD 0 0))) <<< 35) ||| ((((bs.getD 1 0))) <<< 27) ||| ((((bs.getD 2 0))) <<< 19) ||| ((((bs.getD 3 0))) <<< 11) ||| ((((bs.getD 4 0))) <<< 3) ||| ((((bs.getD 5 0) >>> 5) &&& 0x7)),
    (((((bs.getD 5 0)) &&& 0x1f)) <<< 38) ||| ((((bs.getD 6 0))) <<< 30) ||| ((((bs.getD 7 0))) <<< 22) ||| ((((bs.getD 8 0))) <<< 14) ||| ((((bs.getD 9 0))) <<< 6) ||| ((((bs.getD 10 0) >>> 2) &&& 0x3f)),
    (((((bs.getD 10 0)) &&& 0x3)) <<< 41) ||| ((((bs.getD 11 0))) <<< 33) ||| ((((bs.getD 12 0))) <<< 25) ||| ((((bs.getD 13 0))) <<< 17) ||| ((((bs.getD 14 0))) <<< 9) ||| ((((bs.getD 15 0))) <<< 1) ||| ((((bs.getD 16 0) >>> 7) &&& 0x1)),
    (((((bs.getD 16 0)) &&& 0x7f)) <<< 36) ||| ((((bs.getD 17 0))) <<< 28) ||| ((((bs.getD 18 0))) <<< 20) ||| ((((bs.getD 19 0))) <<< 12) ||| ((((bs.getD 20 0))) <<< 4) ||| ((((bs.getD 21 0) >>> 4) &&& 0xf)),
    (((((bs.getD 21 0)) &&& 0xf)) <<< 39) ||| ((((bs.getD 22 0))) <<< 31) ||| ((((bs.getD 23 0))) <<< 23) ||| ((((bs.getD 24 0))) <<< 15) ||| ((((bs.getD 25 0))) <<< 7) ||| ((((bs.getD 26 0) >>> 1) &&& 0x7f)),
    (((((bs.getD 26 0)) &&& 0x1)) <<< 42) ||| ((((bs.getD 27 0))) <<< 34) ||| ((((bs.getD 28 0))) <<< 26) ||| ((((bs.getD 29 0))) <<< 18) ||| ((((bs.getD 30 0))) <<< 10) ||| ((((bs.getD 31 0))) <<< 2) ||| ((((bs.getD 32 0) >>> 6) &&& 0x3)),
    (((((bs.getD 32 0)) &&& 0x3f)) <<< 37) ||| ((((bs.getD 33 0))) <<< 29) ||| ((((bs.getD 34 0))) <<< 21) ||| ((((bs.getD 35 0))) <<< 13) ||| ((((bs.getD 36 0))) <<< 5) ||| ((((bs.getD 37 0) >>> 3) &&& 0x1f)),
    (((((bs.getD 37 0)) &&& 0x7)) <<< 40) ||| ((((bs.getD 38 0))) <<< 32) ||| ((((bs.getD 39 0))) <<< 24) ||| ((((bs.getD 40 0))) <<< 16) ||| ((((bs.getD 41 0))) <<< 8) ||| (((bs.getD 42 0))) ]

def pack_bits_44 (v0 v1 v2 v3 v4 v5 v6 v7 : Nat) : List Nat :=
  [ u8 (((v0 >>> 36) &&& 0xff)),
    u8 (((v0 >>> 28) &&& 0xff)),
    u8 (((v0 >>> 20) &&& 0xff)),
    u8 (((v0 >>> 12) &&& 0xff)),
    u8 (((v0 >>> 4) &&& 0xff)),
    u8 (((((v0) &&& 0xf) <<< 4) ||| ((v1 >>> 40) &&& 0xf))),
    u8 (((v1 >>> 32) &&& 0xff)),
    u8 (((v1 >>> 24) &&& 0xff)),
    u8 (((v1 >>> 16) &&& 0xff)),
    u8 (((v1 >>> 8) &&& 0xff)),
    u8 (((v1) &&& 0xff)),
    u8 (((v2 >>> 36) &&& 0xff)),
    u8 (((v2 >>> 28) &&& 0xff)),
    u8 (((v2 >>> 20) &&& 0xff)),
    u8 (((v2 >>> 12) &&& 0xff)),
    u8 (((v2 >>> 4) &&& 0xff)),
    u8 (((((v2) &&& 0xf) <<< 4) ||| ((v3 >>> 40) &&& 0xf))),
    u8 (((v3 >>> 32) &&& 0xff)),
    u8 (((v3 >>> 24) &&& 0xff)),
    u8 (((v3 >>> 16) &&& 0xff)),
    u8 (((v3 >>> 8) &&& 0xff)),
    u8 (((v3) &&& 0xff)),
    u8 (((v4 >>> 36) &&& 0xff)),
    u8 (((v4 >>> 28) &&& 0xff)),
    u8 (((v4 >>> 20) &&& 0xff)),
    u8 (((v4 >>> 12) &&& 0xff)),
    u8 (((v4 >>> 4) &&& 0xff)),
    u8 (((((v4) &&& 0xf) <<< 4) ||| ((v5 >>> 40) &&& 0xf))),
    u8 (((v5 >>> 32) &&& 0xff)),
    u8 (((v5 >>> 24) &&& 0xff)),
    u8 (((v5 >>> 16) &&& 0xff)),
    u8 (((v5 >>> 8) &&& 0xff)),
    u8 (((v5) &&& 0xff)),
    u8 (((v6 >>> 36) &&& 0xff)),
    u8 (((v6 >>> 28) &&& 0xff)),
    u8 (((v6 >>> 20) &&& 0xff)),
    u8 (((v6 >>> 12) &&& 0xff)),
    u8 (((v6 >>> 4) &&& 0xff)),
    u8 (((((v6) &&& 0xf) <<< 4) ||| ((v7 >>> 40) &&& 0xf))),
    u8 (((v7 >>> 32) &&& 0xff)),
    u8 (((v7 >>> 24) &&& 0xff)),
    u8 (((v7 >>> 16) &&& 0xff)),
    u8 (((v7 >>> 8) &&& 0xff)),
    u8 (((v7) &&& 0xff)) ]

def unpack_bits_44 (bs : List Nat) : List Nat :=
  [ ((((bs.getD 0 0))) <<< 36) ||| ((((bs.getD 1 0))) <<< 28) ||| ((((bs.getD 2 0))) <<< 20) ||| ((((bs.getD 3 0))) <<< 12) ||| ((((bs.getD 4 0))) <<< 4) ||| ((((bs.getD 5 0) >>> 4) &&& 0xf)),
    (((((bs.getD 5 0)) &&& 0xf)) <<< 40) ||| ((((bs.getD 6 0))) <<< 32) ||| ((((bs.getD 7 0))) <<< 24) ||| ((((bs.getD 8 0))) <<< 16) ||| ((((bs.getD 9 0))) <<< 8) ||| (((bs.getD 10 0))),
    ((((bs.getD 11 0))) <<< 36) ||| ((((bs.getD 12 0))) <<< 28) ||| ((((bs.getD 13 0))) <<< 20) ||| ((((bs.getD 14 0))) <<< 12) ||| ((((bs.getD 15 0))) <<< 4) ||| ((((bs.getD 16 0) >>> 4) &&& 0xf)),
    (((((bs.getD 16 0)) &&& 0xf)) <<< 40) ||| ((((bs.getD 17 0))) <<< 32) ||| ((((bs.getD 18 0))) <<< 24) ||| ((((bs.getD 19 0))) <<< 16) ||| ((((bs.getD 20 0))) <<< 8) ||| (((bs.getD 21 0))),
    ((((bs.getD 22 0))) <<< 36) ||| ((((bs.getD 23 0))) <<< 28) ||| ((((bs.getD 24 0))) <<< 20) ||| ((((bs.getD 25 0))) <<< 12) ||| ((((bs.getD 26 0))) <<< 4) ||| ((((bs.getD 27 0) >>> 4) &&& 0xf)),
    (((((bs.getD 27 0)) &&& 0xf)) <<< 40) ||| ((((bs.getD 28 0))) <<< 32) ||| ((((bs.getD 29 0))) <<< 24) ||| ((((bs.getD 30 0))) <<< 16) ||| ((((bs.getD 31 0))) <<< 8) ||| (((bs.getD 32 0))),
    ((((bs.getD 33 0))) <<< 36) ||| ((((bs.getD 34 0))) <<< 28) ||| ((((bs.getD 35 0))) <<< 20) ||| ((((bs.getD 36 0))) <<< 12) ||| ((((bs.getD 37 0))) <<< 4) ||| ((((bs.getD 38 0) >>> 4) &&& 0xf)),
    (((((bs.getD 38 0)) &&& 0xf)) <<< 40) ||| ((((bs.getD 39 0))) <<< 32) ||| ((((bs.getD 40 0))) <<< 24) ||| ((((bs.getD 41 0))) <<< 16) ||| ((((bs.getD 42 0))) <<< 8) ||| (((bs.getD 43 0))) ]

def pack_bits_45 (v0 v1 v2 v3 v4 v5 v6 v7 : Nat) : List Nat :=
  [ u8 (((v0 >>> 37) &&& 0xff)),
    u8 (((v0 >>> 29) &&& 0xff)),
    u8 (((v0 >>> 21) &&& 0xff)),
    u8 (((v0 >>> 13) &&& 0xff)),
    u8 (((v0 >>> 5) &&& 0xff)),
    u8 (((((v0) &&& 0x1f) <<< 3) ||| ((v1 >>> 42) &&& 0x7))),
    u8 (((v1 >>> 34) &&& 0xff)),
    u8 (((v1 >>> 26) &&& 0xff)),
    u8 (((v1 >>> 18) &&& 0xff)),
    u8 (((v1 >>> 10) &&& 0xff)),
    u8 (((v1 >>> 2) &&& 0xff)),
    u8 (((((v1) &&& 0x3) <<< 6) ||| ((v2 >>> 39) &&& 0x3f))),
    u8 (((v2 >>> 31) &&& 0xff)),
    u8 (((v2 >>> 23) &&& 0xff)),
    u8 (((v2 >>> 15) &&& 0xff)),
    u8 (((v2 >>> 7) &&& 0xff)),
    u8 (((((v2) &&& 0x7f) <<< 1) ||| ((v3 >>> 44) &&& 0x1))),
    u8 (((v3 >>> 36) &&& 0xff)),
    u8 (((v3 >>> 28) &&& 0xff)),
    u8 (((v3 >>> 20) &&& 0xff)),
    u8 (((v3 >>> 12) &&& 0xff)),
    u8 (((v3 >>> 4) &&& 0xff)),
    u8 (((((v3) &&& 0xf) <<< 4) ||| ((v4 >>> 41) &&& 0xf))),
    u8 (((v4 >>> 33) &&& 0xff)),
    u8 (((v4 >>> 25) &&& 0xff)),
    u8 (((v4 >>> 17) &&& 0xff)),
    u8 (((v4 >>> 9) &&& 0xff)),
    u8 (((v4 >>> 1) &&& 0xff)),
    u8 (((((v4) &&& 0x1) <<< 7) ||| ((v5 >>> 38) &&& 0x7f))),
    u8 (((v5 >>> 30) &&& 0xff)),
    u8 (((v5 >>> 22) &&& 0xff)),
    u8 (((v5 >>> 14) &&& 0xff)),
    u8 (((v5 >>> 6) &&& 0xff)),
    u8 (((((v5) &&& 0x3f) <<< 2) ||| ((v6 >>> 43) &&& 0x3))),
    u8 (((v6 >>> 35) &&& 0xff)),
    u8 (((v6 >>> 27) &&& 0xff)),
    u8 (((v6 >>> 19) &&& 0xff)),
    u8 (((v6 >>> 11) &&& 0xff)),
    u8 (((v6 >>> 3) &&& 0xff)),
    u8 (((((v6) &&& 0x7) <<< 5) ||| ((v7 >>> 40) &&& 0x1f))),
    u8 (((v7 >>> 32) &&& 0xff)),
    u8 (((v7 >>> 24) &&& 0xff)),
    u8 (((v7 >>> 16) &&& 0xff)),
    u8 (((v7 >>> 8) &&& 0xff)),
    u8 (((v7) &&& 0xff)) ]

def unpack_bits_45 (bs : List Nat) : List Nat :=
  [ ((((bs.getD 0 0))) <<< 37) ||| ((((bs.getD 1 0))) <<< 29) ||| ((((bs.getD 2 0))) <<< 21) ||| ((((bs.getD 3 0))) <<< 13) ||| ((((bs.getD 4 0))) <<< 5) ||| ((((bs.getD 5 0) >>> 3) &&& 0x1f)),
    (((((bs.getD 5 0)) &&& 0x7)) <<< 42) ||| ((((bs.getD 6 0))) <<< 34) ||| ((((bs.getD 7 0))) <<< 26) ||| ((((bs.getD 8 0))) <<< 18) ||| ((((bs.getD 9 0))) <<< 10) ||| ((((bs.getD 10 0))) <<< 2) ||| ((((bs.getD 11 0) >>> 6) &&& 0x3)),
    (((((bs.getD 11 0)) &&& 0x3f)) <<< 39) ||| ((((bs.getD 12 0))) <<< 31) ||| ((((bs.getD 13 0))) <<< 23) ||| ((((bs.getD 14 0))) <<< 15) ||| ((((bs.getD 15 0))) <<< 7) ||| ((((bs.getD 16 0) >>> 1) &&& 0x7f)),
    (((((bs.getD 16 0)) &&& 0x1)) <<< 44) ||| ((((bs.getD 17 0))) <<< 36) ||| ((((bs.getD 18 0))) <<< 28) ||| ((((bs.getD 19 0))) <<< 20) ||| ((((bs.getD 20 0))) <<< 12) ||| ((((bs.getD 21 0))) <<< 4) ||| ((((bs.getD 22 0) >>> 4) &&& 0xf)),
    (((((bs.getD 22 0)) &&& 0xf)) <<< 41) ||| ((((bs.getD 23 0))) <<< 33) ||| ((((bs.getD 24 0))) <<< 25) ||| ((((bs.getD 25 0))) <<< 17) ||| ((((bs.getD 26 0))) <<< 9) ||| ((((bs.getD 27 0))) <<< 1) ||| ((((bs.getD 28 0) >>> 7) &&& 0x1)),
    (((((bs.getD 28 0)) &&& 0x7f)) <<< 38) ||| ((((bs.getD 29 0))) <<< 30) ||| ((((bs.getD 30 0))) <<< 22) ||| ((((bs.getD 31 0))) <<< 14) ||| ((((bs.getD 32 0))) <<< 6) ||| ((((bs.getD 33 0) >>> 2) &&& 0x3f)),
    (((((bs.getD 33 0)) &&& 0x3)) <<< 43) ||| ((((bs.getD 34 0))) <<< 35) ||| ((((bs.getD 35 0))) <<< 27) ||| ((((bs.getD 36 0))) <<< 19) ||| ((((bs.getD 37 0))) <<< 11) ||| ((((bs.getD 38 0))) <<< 3) ||| ((((bs.getD 39 0) >>> 5) &&& 0x7)),
    (((((bs.getD 39 0)) &&& 0x1f)) <<< 40) ||| ((((bs.getD 40 0))) <<< 32) ||| ((((bs.getD 41 0))) <<< 24) ||| ((((bs.getD 42 0))) <<< 16) ||| ((((bs.getD 43 0))) <<< 8) ||| (((bs.getD 44 0))) ]

def pack_bits_46 (v0 v1 v2 v3 v4 v5 v6 v7 : Nat) : List Nat :=
  [ u8 (((v0 >>> 38) &&& 0xff)),
    u8 (((v0 >>> 30) &&& 0xff)),
    u8 (((v0 >>> 22) &&& 0xff)),
    u8 (((v0 >>> 14) &&& 0xff)),
    u8 (((v0 >>> 6) &&& 0xff)),
    u8 (((((v0) &&& 0x3f) <<< 2) ||| ((v1 >>> 44) &&& 0x3))),
    u8 (((v1 >>> 36) &&& 0xff)),
    u8 (((v1 >>> 28) &&& 0xff)),
    u8 (((v1 >>> 20) &&& 0xff)),
    u8 (((v1 >>> 12) &&& 0xff)),
    u8 (((v1 >>> 4) &&& 0xff)),
    u8 (((((v1) &&& 0xf) <<< 4) ||| ((v2 >>> 42) &&& 0xf))),
    u8 (((v2 >>> 34) &&& 0xff)),
    u8 (((v2 >>> 26) &&& 0xff)),
    u8 (((v2 >>> 18) &&& 0xff)),
    u8 (((v2 >>> 10) &&& 0xff)),
    u8 (((v2 >>> 2) &&& 0xff)),
    u8 (((((v2) &&& 0x3) <<< 6) ||| ((v3 >>> 40) &&& 0x3f))),
    u8 (((v3 >>> 32) &&& 0xff)),
    u8 (((v3 >>> 24) &&& 0xff)),
    u8 (((v3 >>> 16) &&& 0xff)),
    u8 (((v3 >>> 8) &&& 0xff)),
    u8 (((v3) &&& 0xff)),
    u8 (((v4 >>> 38) &&& 0xff)),
    u8 (((v4 >>> 30) &&& 0xff)),
    u8 (((v4 >>> 22) &&& 0xff)),
    u8 (((v4 >>> 14) &&& 0xff)),
    u8 (((v4 >>> 6) &&& 0xff)),
    u8 (((((v4) &&& 0x3f) <<< 2) ||| ((v5 >>> 44) &&& 0x3))),
    u8 (((v5 >>> 36) &&& 0xff)),
    u8 (((v5 >>> 28) &&& 0xff)),
    u8 (((v5 >>> 20) &&& 0xff)),
    u8 (((v5 >>> 12) &&& 0xff)),
    u8 (((v5 >>> 4) &&& 0xff)),
    u8 (((((v5) &&& 0xf) <<< 4) ||| ((v6 >>> 42) &&& 0xf))),
    u8 (((v6 >>> 34) &&& 0xff)),
    u8 (((v6 >>> 26) &&& 0xff)),
    u8 (((v6 >>> 18) &&& 0xff)),
    u8 (((v6 >>> 10) &&& 0xff)),
    u8 (((v6 >>> 2) &&& 0xff)),
    u8 (((((v6) &&& 0x3) <<< 6) ||| ((v7 >>> 40) &&& 0x3f))),
    u8 (((v7 >>> 32) &&& 0xff)),
    u8 (((v7 >>> 24) &&& 0xff)),
    u8 (((v7 >>> 16) &&& 0xff)),
    u8 (((v7 >>> 8) &&& 0xff)),
    u8 (((v7) &&& 0xff)) ]

def unpack_bits_46 (bs : List Nat) : List Nat :=
  [ ((((bs.getD 0 0))) <<< 38) ||| ((((bs.getD 1 0))) <<< 30) ||| ((((bs.getD 2 0))) <<< 22) ||| ((((bs.getD 3 0))) <<< 14) ||| ((((bs.getD 4 0))) <<< 6) ||| ((((bs.getD 5 0) >>> 2) &&& 0x3f)),
    (((((bs.getD 5 0)) &&& 0x3)) <<< 44) ||| ((((bs.getD 6 0))) <<< 36) ||| ((((bs.getD 7 0))) <<< 28) ||| ((((bs.getD 8 0))) <<< 20) ||| ((((bs.getD 9 0))) <<< 12) ||| ((((bs.getD 10 0))) <<< 4) ||| ((((bs.getD 11 0) >>> 4) &&& 0xf)),
    (((((bs.getD 11 0)) &&& 0xf)) <<< 42) ||| ((((bs.getD 12 0))) <<< 34) ||| ((((bs.getD 13 0))) <<< 26) ||| ((((bs.getD 14 0))) <<< 18) ||| ((((bs.getD 15 0))) <<< 10) ||| ((((bs.getD 16 0))) <<< 2) ||| ((((bs.getD 17 0) >>> 6) &&& 0x3)),
    (((((bs.getD 17 0)) &&& 0x3f)) <<< 40) ||| ((((bs.getD 18 0))) <<< 32) ||| ((((bs.getD 19 0))) <<< 24) ||| ((((bs.getD 20 0))) <<< 16) ||| ((((bs.getD 21 0))) <<< 8) ||| (((bs.getD 22 0))),
    ((((bs.getD 23 0))) <<< 38) ||| ((((bs.getD 24 0))) <<< 30) ||| ((((bs.getD 25 0))) <<< 22) ||| ((((bs.getD 26 0))) <<< 14) ||| ((((bs.getD 27 0))) <<< 6) ||| ((((bs.getD 28 0) >>> 2) &&& 0x3f)),
    (((((bs.getD 28 0)) &&& 0x3)) <<< 44) ||| ((((bs.getD 29 0))) <<< 36) ||| ((((bs.getD 30 0))) <<< 28) ||| ((((bs.getD 31 0))) <<< 20) ||| ((((bs.getD 32 0))) <<< 12) ||| ((((bs.getD 33 0))) <<< 4) ||| ((((bs.getD 34 0) >>> 4) &&& 0xf)),
    (((((bs.getD 34 0)) &&& 0xf)) <<< 42) ||| ((((bs.getD 35 0))) <<< 34) ||| ((((bs.getD 36 0))) <<< 26) ||| ((((bs.getD 37 0))) <<< 18) ||| ((((bs.getD 38 0))) <<< 10) ||| ((((bs.getD 39 0))) <<< 2) ||| ((((bs.getD 40 0) >>> 6) &&& 0x3)),
    (((((bs.getD 40 0)) &&& 0x3f)) <<< 40) ||| ((((bs.getD 41 0))) <<< 32) ||| ((((bs.getD 42 0))) <<< 24) ||| ((((bs.getD 43 0))) <<< 16) ||| ((((bs.getD 44 0))) <<< 8) ||| (((bs.getD 45 0))) ]

def pack_bits_47 (v0 v1 v2 v3 v4 v5 v6 v7 : Nat) : List Nat :=
  [ u8 (((v0 >>> 39) &&& 0xff)),
    u8 (((v0 >>> 31) &&& 0xff)),
    u8 (((v0 >>> 23) &&& 0xff)),
    u8 (((v0 >>> 15) &&& 0xff)),
    u8 (((v0 >>> 7) &&& 0xff)),
    u8 (((((v0) &&& 0x7f) <<< 1) ||| ((v1 >>> 46) &&& 0x1))),
    u8 (((v1 >>> 38) &&& 0xff)),
    u8 (((v1 >>> 30) &&& 0xff)),
    u8 (((v1 >>> 22) &&& 0xff)),
    u8 (((v1 >>> 14) &&& 0xff)),
    u8 (((v1 >>> 6) &&& 0xff)),
    u8 (((((v1) &&& 0x3f) <<< 2) ||| ((v2 >>> 45) &&& 0x3))),
    u8 (((v2 >>> 37) &&& 0xff)),
    u8 (((v2 >>> 29) &&& 0xff)),
    u8 (((v2 >>> 21) &&& 0xff)),
    u8 (((v2 >>> 13) &&& 0xff)),
    u8 (((v2 >>> 5) &&& 0xff)),
    u8 (((((v2) &&& 0x1f) <<< 3) ||| ((v3 >>> 44) &&& 0x7))),
    u8 (((v3 >>> 36) &&& 0xff)),
    u8 (((v3 >>> 28) &&& 0xff)),
    u8 (((v3 >>> 20) &&& 0xff)),
    u8 (((v3 >>> 12) &&& 0xff)),
    u8 (((v3 >>> 4) &&& 0xff)),
    u8 (((((v3) &&& 0xf) <<< 4) ||| ((v4 >>> 43) &&& 0xf))),
    u8 (((v4 >>> 35) &&& 0xff)),
    u8 (((v4 >>> 27) &&& 0xff)),
    u8 (((v4 >>> 19) &&& 0xff)),
    u8 (((v4 >>> 11) &&& 0xff)),
    u8 (((v4 >>> 3) &&& 0xff)),
    u8 (((((v4) &&& 0x7) <<< 5) ||| ((v5 >>> 42) &&& 0x1f))),
    u8 (((v5 >>> 34) &&& 0xff)),
    u8 (((v5 >>> 26) &&& 0xff)),
    u8 (((v5 >>> 18) &&& 0xff)),
    u8 (((v5 >>> 10) &&& 0xff)),
    u8 (((v5 >>> 2) &&& 0xff)),
    u8 (((((v5) &&& 0x3) <<< 6) ||| ((v6 >>> 41) &&& 0x3f))),
    u8 (((v6 >>> 33) &&& 0xff)),
    u8 (((v6 >>> 25) &&& 0xff)),
    u8 (((v6 >>> 17) &&& 0xff)),
    u8 (((v6 >>> 9) &&& 0xff)),
    u8 (((v6 >>> 1) &&& 0xff)),
    u8 (((((v6) &&& 0x1) <<< 7) ||| ((v7 >>> 40) &&& 0x7f))),
    u8 (((v7 >>> 32) &&& 0xff)),
    u8 (((v7 >>> 24) &&& 0xff)),
    u8 (((v7 >>> 16) &&& 0xff)),
    u8 (((v7 >>> 8) &&& 0xff)),
    u8 (((v7) &&& 0xff)) ]

def unpack_bits_47 (bs : List Nat) : List Nat :=
  [ ((((bs.getD 0 0))) <<< 39) ||| ((((bs.getD 1 0))) <<< 31) ||| ((((bs.getD 2 0))) <<< 23) ||| ((((bs.getD 3 0))) <<< 15) ||| ((((bs.getD 4 0))) <<< 7) ||| ((((bs.getD 5 0) >>> 1) &&& 0x7f)),
    (((((bs.getD 5 0)) &&& 0x1)) <<< 46) ||| ((((bs.getD 6 0))) <<< 38) ||| ((((bs.getD 7 0))) <<< 30) ||| ((((bs.getD 8 0))) <<< 22) ||| ((((bs.getD 9 0))) <<< 14) ||| ((((bs.getD 10 0))) <<< 6) ||| ((((bs.getD 11 0) >>> 2) &&& 0x3f)),
    (((((bs.getD 11 0)) &&& 0x3)) <<< 45) ||| ((((bs.getD 12 0))) <<< 37) ||| ((((bs.getD 13 0))) <<< 29) ||| ((((bs.getD 14 0))) <<< 21) ||| ((((bs.getD 15 0))) <<< 13) ||| ((((bs.getD 16 0))) <<< 5) ||| ((((bs.getD 17 0) >>> 3) &&& 0x1f)),
    (((((bs.getD 17 0)) &&& 0x7)) <<< 44) ||| ((((bs.getD 18 0))) <<< 36) ||| ((((bs.getD 19 0))) <<< 28) ||| ((((bs.getD 20 0))) <<< 20) ||| ((((bs.getD 21 0))) <<< 12) ||| ((((bs.getD 22 0))) <<< 4) ||| ((((bs.getD 23 0) >>> 4) &&& 0xf)),
    (((((bs.getD 23 0)) &&& 0xf)) <<< 43) ||| ((((bs.getD 24 0))) <<< 35) ||| ((((bs.getD 25 0))) <<< 27) ||| ((((bs.getD 26 0))) <<< 19) ||| ((((bs.getD 27 0))) <<< 11) ||| ((((bs.getD 28 0))) <<< 3) ||| ((((bs.getD 29 0) >>> 5) &&& 0x7)),
    (((((bs.getD 29 0)) &&& 0x1f)) <<< 42) ||| ((((bs.getD 30 0))) <<< 34) ||| ((((bs.getD 31 0))) <<< 26) ||| ((((bs.getD 32 0))) <<< 18) ||| ((((bs.getD 33 0))) <<< 10) ||| ((((bs.getD 34 0))) <<< 2) ||| ((((bs.getD 35 0) >>> 6) &&& 0x3)),
    (((((bs.getD 35 0)) &&& 0x3f)) <<< 41) ||| ((((bs.getD 36 0))) <<< 33) ||| ((((bs.getD 37 0))) <<< 25) ||| ((((bs.getD 38 0))) <<< 17) ||| ((((bs.getD 39 0))) <<< 9) ||| ((((bs.getD 40 0))) <<< 1) ||| ((((bs.getD 41 0) >>> 7) &&& 0x1)),
    (((((bs.getD 41 0)) &&& 0x7f)) <<< 40) ||| ((((bs.getD 42 0))) <<< 32) ||| ((((bs.getD 43 0))) <<< 24) ||| ((((bs.getD 44 0))) <<< 16) ||| ((((bs.getD 45 0))) <<< 8) ||| (((bs.getD 46 0))) ]

def pack_bits_48 (v0 v1 v2 v3 v4 v5 v6 v7 : Nat) : List Nat :=
  [ u8 (((v0 >>> 40) &&& 0xff)),
    u8 (((v0 >>> 32) &&& 0xff)),
    u8 (((v0 >>> 24) &&& 0xff)),
    u8 (((v0 >>> 16) &&& 0xff)),
    u8 (((v0 >>> 8) &&& 0xff)),
    u8 (((v0) &&& 0xff)),
    u8 (((v1 >>> 40) &&& 0xff)),
    u8 (((v1 >>> 32) &&& 0xff)),
    u8 (((v1 >>> 24) &&& 0xff)),
    u8 (((v1 >>> 16) &&& 0xff)),
    u8 (((v1 >>> 8) &&& 0xff)),
    u8 (((v1) &&& 0xff)),
    u8 (((v2 >>> 40) &&& 0xff)),
    u8 (((v2 >>> 32) &&& 0xff)),
    u8 (((v2 >>> 24) &&& 0xff)),
    u8 (((v2 >>> 16) &&& 0xff)),
    u8 (((v2 >>> 8) &&& 0xff)),
    u8 (((v2) &&& 0xff)),
    u8 (((v3 >>> 40) &&& 0xff)),
    u8 (((v3 >>> 32) &&& 0xff)),
    u8 (((v3 >>> 24) &&& 0xff)),
    u8 (((v3 >>> 16) &&& 0xff)),
    u8 (((v3 >>> 8) &&& 0xff)),
    u8 (((v3) &&& 0xff)),
    u8 (((v4 >>> 40) &&& 0xff)),
    u8 (((v4 >>> 32) &&& 0xff)),
    u8 (((v4 >>> 24) &&& 0xff)),
    u8 (((v4 >>> 16) &&& 0xff)),
    u8 (((v4 >>> 8) &&& 0xff)),
    u8 (((v4) &&& 0xff)),
    u8 (((v5 >>> 40) &&& 0xff)),
    u8 (((v5 >>> 32) &&& 0xff)),
    u8 (((v5 >>> 24) &&& 0xff)),
    u8 (((v5 >>> 16) &&& 0xff)),
    u8 (((v5 >>> 8) &&& 0xff)),
    u8 (((v5) &&& 0xff)),
    u8 (((v6 >>> 40) &&& 0xff)),
    u8 (((v6 >>> 32) &&& 0xff)),
    u8 (((v6 >>> 24) &&& 0xff)),
    u8 (((v6 >>> 16) &&& 0xff)),
    u8 (((v6 >>> 8) &&& 0xff)),
    u8 (((v6) &&& 0xff)),
    u8 (((v7 >>> 40) &&& 0xff)),
    u8 (((v7 >>> 32) &&& 0xff)),
    u8 (((v7 >>> 24) &&& 0xff)),
    u8 (((v7 >>> 16) &&& 0xff)),
    u8 (((v7 >>> 8) &&& 0xff)),
    u8 (((v7) &&& 0xff)) ]

def unpack_bits_48 (bs : List Nat) : List Nat :=
  [ ((((bs.getD 0 0))) <<< 40) ||| ((((bs.getD 1 0))) <<< 32) ||| ((((bs.getD 2 0))) <<< 24) ||| ((((bs.getD 3 0))) <<< 16) ||| ((((bs.getD 4 0))) <<< 8) ||| (((bs.getD 5 0))),
    ((((bs.getD 6 0))) <<< 40) ||| ((((bs.getD 7 0))) <<< 32) ||| ((((bs.getD 8 0))) <<< 24) ||| ((((bs.getD 9 0))) <<< 16) ||| ((((bs.getD 10 0))) <<< 8) ||| (((bs.getD 11 0))),
    ((((bs.getD 12 0))) <<< 40) ||| ((((bs.getD 13 0))) <<< 32) ||| ((((bs.getD 14 0))) <<< 24) ||| ((((bs.getD 15 0))) <<< 16) ||| ((((bs.getD 16 0))) <<< 8) ||| (((bs.getD 17 0))),
    ((((bs.getD 18 0))) <<< 40) ||| ((((bs.getD 19 0))) <<< 32) ||| ((((bs.getD 20 0))) <<< 24) ||| ((((bs.getD 21 0))) <<< 16) ||| ((((bs.getD 22 0))) <<< 8) ||| (((bs.getD 23 0))),
    ((((bs.getD 24 0))) <<< 40) ||| ((((bs.getD 25 0))) <<< 32) ||| ((((bs.getD 26 0))) <<< 24) ||| ((((bs.getD 27 0))) <<< 16) ||| ((((bs.getD 28 0))) <<< 8) ||| (((bs.getD 29 0))),
    ((((bs.getD 30 0))) <<< 40) ||| ((((bs.getD 31 0))) <<< 32) ||| ((((bs.getD 32 0))) <<< 24) ||| ((((bs.getD 33 0))) <<< 16) ||| ((((bs.getD 34 0))) <<< 8) ||| (((bs.getD 35 0))),
    ((((bs.getD 36 0))) <<< 40) ||| ((((bs.getD 37 0))) <<< 32) ||| ((((bs.getD 38 0))) <<< 24) ||| ((((bs.getD 39 0))) <<< 16) ||| ((((bs.getD 40 0))) <<< 8) ||| (((bs.getD 41 0))),
    ((((bs.getD 42 0))) <<< 40) ||| ((((bs.getD 43 0))) <<< 32) ||| ((((bs.getD 44 0))) <<< 24) ||| ((((bs.getD 45 0))) <<< 16) ||| ((((bs.getD 46 0))) <<< 8) ||| (((bs.getD 47 0))) ]

def pack_bits_49 (v0 v1 v2 v3 v4 v5 v6 v7 : Nat) : List Nat :=
  [ u8 (((v0 >>> 41) &&& 0xff)),
    u8 (((v0 >>> 33) &&& 0xff)),
    u8 (((v0 >>> 25) &&& 0xff)),
    u8 (((v0 >>> 17) &&& 0xff)),
    u8 (((v0 >>> 9) &&& 0xff)),
    u8 (((v0 >>> 1) &&& 0xff)),
    u8 (((((v0) &&& 0x1) <<< 7) ||| ((v1 >>> 42) &&& 0x7f))),
    u8 (((v1 >>> 34) &&& 0xff)),
    u8 (((v1 >>> 26) &&& 0xff)),
    u8 (((v1 >>> 18) &&& 0xff)),
    u8 (((v1 >>> 10) &&& 0xff)),
    u8 (((v1 >>> 2) &&& 0xff)),
    u8 (((((v1) &&& 0x3) <<< 6) ||| ((v2 >>> 43) &&& 0x3f))),
    u8 (((v2 >>> 35) &&& 0xff)),
    u8 (((v2 >>> 27) &&& 0xff)),
    u8 (((v2 >>> 19) &&& 0xff)),
    u8 (((v2 >>> 11) &&& 0xff)),
    u8 (((v2 >>> 3) &&& 0xff)),
    u8 (((((v2) &&& 0x7) <<< 5) ||| ((v3 >>> 44) &&& 0x1f))),
    u8 (((v3 >>> 36) &&& 0xff)),
    u8 (((v3 >>> 28) &&& 0xff)),
    u8 (((v3 >>> 20) &&& 0xff)),
    u8 (((v3 >>> 12) &&& 0xff)),
    u8 (((v3 >>> 4) &&& 0xff)),
    u8 (((((v3) &&& 0xf) <<< 4) ||| ((v4 >>> 45) &&& 0xf))),
    u8 (((v4 >>> 37) &&& 0xff)),
    u8 (((v4 >>> 29) &&& 0xff)),
    u8 (((v4 >>> 21) &&& 0xff)),
    u8 (((v4 >>> 13) &&& 0xff)),
    u8 (((v4 >>> 5) &&& 0xff)),
    u8 (((((v4) &&& 0x1f) <<< 3) ||| ((v5 >>> 46) &&& 0x7))),
    u8 (((v5 >>> 38) &&& 0xff)),
    u8 (((v5 >>> 30) &&& 0xff)),
    u8 (((v5 >>> 22) &&& 0xff)),
    u8 (((v5 >>> 14) &&& 0xff)),
    u8 (((v5 >>> 6) &&& 0xff)),
    u8 (((((v5) &&& 0x3f) <<< 2) ||| ((v6 >>> 47) &&& 0x3))),
    u8 (((v6 >>> 39) &&& 0xff)),
    u8 (((v6 >>> 31) &&& 0xff)),
    u8 (((v6 >>> 23) &&& 0xff)),
    u8 (((v6 >>> 15) &&& 0xff)),
    u8 (((v6 >>> 7) &&& 0xff)),
    u8 (((((v6) &&& 0x7f) <<< 1) ||| ((v7 >>> 48) &&& 0x1))),
    u8 (((v7 >>> 40) &&& 0xff)),
    u8 (((v7 >>> 32) &&& 0xff)),
    u8 (((v7 >>> 24) &&& 0xff)),
    u8 (((v7 >>> 16) &&& 0xff)),
    u8 (((v7 >>> 8) &&& 0xff)),
    u8 (((v7) &&& 0xff)) ]

def unpack_bits_49 (bs : List Nat) : List Nat :=
  [ ((((bs.getD 0 0))) <<< 41) ||| ((((bs.getD 1 0))) <<< 33) ||| ((((bs.getD 2 0))) <<< 25) ||| ((((bs.getD 3 0))) <<< 17) ||| ((((bs.getD 4 0))) <<< 9) ||| ((((bs.getD 5 0))) <<< 1) ||| ((((bs.getD 6 0) >>> 7) &&& 0x1)),
    (((((bs.getD 6 0)) &&& 0x7f)) <<< 42) ||| ((((bs.getD 7 0))) <<< 34) ||| ((((bs.getD 8 0))) <<< 26) ||| ((((bs.getD 9 0))) <<< 18) ||| ((((bs.getD 10 0))) <<< 10) ||| ((((bs.getD 11 0))) <<< 2) ||| ((((bs.getD 12 0) >>> 6) &&& 0x3)),
    (((((bs.getD 12 0)) &&& 0x3f)) <<< 43) ||| ((((bs.getD 13 0))) <<< 35) ||| ((((bs.getD 14 0))) <<< 27) ||| ((((bs.getD 15 0))) <<< 19) ||| ((((bs.getD 16 0))) <<< 11) ||| ((((bs.getD 17 0))) <<< 3) ||| ((((bs.getD 18 0) >>> 5) &&& 0x7)),
    (((((bs.getD 18 0)) &&& 0x1f)) <<< 44) ||| ((((bs.getD 19 0))) <<< 36) ||| ((((bs.getD 20 0))) <<< 28) ||| ((((bs.getD 21 0))) <<< 20) ||| ((((bs.getD 22 0))) <<< 12) ||| ((((bs.getD 23 0))) <<< 4) ||| ((((bs.getD 24 0) >>> 4) &&& 0xf)),
    (((((bs.getD 24 0)) &&& 0xf)) <<< 45) ||| ((((bs.getD 25 0))) <<< 37) ||| ((((bs.getD 26 0))) <<< 29) ||| ((((bs.getD 27 0))) <<< 21) ||| ((((bs.getD 28 0))) <<< 13) ||| ((((bs.getD 29 0))) <<< 5) ||| ((((bs.getD 30 0) >>> 3) &&& 0x1f)),
    (((((bs.getD 30 0)) &&& 0x7)) <<< 46) ||| ((((bs.getD 31 0))) <<< 38) ||| ((((bs.getD 32 0))) <<< 30) ||| ((((bs.getD 33 0))) <<< 22) ||| ((((bs.getD 34 0))) <<< 14) ||| ((((bs.getD 35 0))) <<< 6) ||| ((((bs.getD 36 0) >>> 2) &&& 0x3f)),
    (((((bs.getD 36 0)) &&& 0x3)) <<< 47) ||| ((((bs.getD 37 0))) <<< 39) ||| ((((bs.getD 38 0))) <<< 31) ||| ((((bs.getD 39 0))) <<< 23) ||| ((((bs.getD 40 0))) <<< 15) ||| ((((bs.getD 41 0))) <<< 7) ||| ((((bs.getD 42 0) >>> 1) &&& 0x7f)),
    (((((bs.getD 42 0)) &&& 0x1)) <<< 48) ||| ((((bs.getD 43 0))) <<< 40) ||| ((((bs.getD 44 0))) <<< 32) ||| ((((bs.getD 45 0))) <<< 24) ||| ((((bs.getD 46 0))) <<< 16) ||| ((((bs.getD 47 0))) <<< 8) ||| (((bs.getD 48 0))) ]

def pack_bits_50 (v0 v1 v2 v3 v4 v5 v6 v7 : Nat) : List Nat :=
  [ u8 (((v0 >>> 42) &&& 0xff)),
    u8 (((v0 >>> 34) &&& 0xff)),
    u8 (((v0 >>> 26) &&& 0xff)),
    u8 (((v0 >>> 18) &&& 0xff)),
    u8 (((v0 >>> 10) &&& 0xff)),
    u8 (((v0 >>> 2) &&& 0xff)),
    u8 (((((v0) &&& 0x3) <<< 6) ||| ((v1 >>> 44) &&& 0x3f))),
    u8 (((v1 >>> 36) &&& 0xff)),
    u8 (((v1 >>> 28) &&& 0xff)),
    u8 (((v1 >>> 20) &&& 0xff)),
    u8 (((v1 >>> 12) &&& 0xff)),
    u8 (((v1 >>> 4) &&& 0xff)),
    u8 (((((v1) &&& 0xf) <<< 4) ||| ((v2 >>> 46) &&& 0xf))),
    u8 (((v2 >>> 38) &&& 0xff)),
    u8 (((v2 >>> 30) &&& 0xff)),
    u8 (((v2 >>> 22) &&& 0xff)),
    u8 (((v2 >>> 14) &&& 0xff)),
    u8 (((v2 >>> 6) &&& 0xff)),
    u8 (((((v2) &&& 0x3f) <<< 2) ||| ((v3 >>> 48) &&& 0x3))),
    u8 (((v3 >>> 40) &&& 0xff)),
    u8 (((v3 >>> 32) &&& 0xff)),
    u8 (((v3 >>> 24) &&& 0xff)),
    u8 (((v3 >>> 16) &&& 0xff)),
    u8 (((v3 >>> 8) &&& 0xff)),
    u8 (((v3) &&& 0xff)),
    u8 (((v4 >>> 42) &&& 0xff)),
    u8 (((v4 >>> 34) &&& 0xff)),
    u8 (((v4 >>> 26) &&& 0xff)),
    u8 (((v4 >>> 18) &&& 0xff)),
    u8 (((v4 >>> 10) &&& 0xff)),
    u8 (((v4 >>> 2) &&& 0xff)),
    u8 (((((v4) &&& 0x3) <<< 6) ||| ((v5 >>> 44) &&& 0x3f))),
    u8 (((v5 >>> 36) &&& 0xff)),
    u8 (((v5 >>> 28) &&& 0xff)),
    u8 (((v5 >>> 20) &&& 0xff)),
    u8 (((v5 >>> 12) &&& 0xff)),
    u8 (((v5 >>> 4) &&& 0xff)),
    u8 (((((v5) &&& 0xf) <<< 4) ||| ((v6 >>> 46) &&& 0xf))),
    u8 (((v6 >>> 38) &&& 0xff)),
    u8 (((v6 >>> 30) &&& 0xff)),
    u8 (((v6 >>> 22) &&& 0xff)),
    u8 (((v6 >>> 14) &&& 0xff)),
    u8 (((v6 >>> 6) &&& 0xff)),
    u8 (((((v6) &&& 0x3f) <<< 2) ||| ((v7 >>> 48) &&& 0x3))),
    u8 (((v7 >>> 40) &&& 0xff)),
    u8 (((v7 >>> 32) &&& 0xff)),
    u8 (((v7 >>> 24) &&& 0xff)),
    u8 (((v7 >>> 16) &&& 0xff)),
    u8 (((v7 >>> 8) &&& 0xff)),
    u8 (((v7) &&& 0xff)) ]

def unpack_bits_50 (bs : List Nat) : List Nat :=
  [ ((((bs.getD 0 0))) <<< 42) ||| ((((bs.getD 1 0))) <<< 34) ||| ((((bs.getD 2 0))) <<< 26) ||| ((((bs.getD 3 0))) <<< 18) ||| ((((bs.getD 4 0))) <<< 10) ||| ((((bs.getD 5 0))) <<< 2) ||| ((((bs.getD 6 0) >>> 6) &&& 0x3)),
    (((((bs.getD 6 0)) &&& 0x3f)) <<< 44) ||| ((((bs.getD 7 0))) <<< 36) ||| ((((bs.getD 8 0))) <<< 28) ||| ((((bs.getD 9 0))) <<< 20) ||| ((((bs.getD 10 0))) <<< 12) ||| ((((bs.getD 11 0))) <<< 4) ||| ((((bs.getD 12 0) >>> 4) &&& 0xf)),
    (((((bs.getD 12 0)) &&& 0xf)) <<< 46) ||| ((((bs.getD 13 0))) <<< 38) ||| ((((bs.getD 14 0))) <<< 30) ||| ((((bs.getD 15 0))) <<< 22) ||| ((((bs.getD 16 0))) <<< 14) ||| ((((bs.getD 17 0))) <<< 6) ||| ((((bs.getD 18 0) >>> 2) &&& 0x3f)),
    (((((bs.getD 18 0)) &&& 0x3)) <<< 48) ||| ((((bs.getD 19 0))) <<< 40) ||| ((((bs.getD 20 0))) <<< 32) ||| ((((bs.getD 21 0))) <<< 24) ||| ((((bs.getD 22 0))) <<< 16) ||| ((((bs.getD 23 0))) <<< 8) ||| (((bs.getD 24 0))),
    ((((bs.getD 25 0))) <<< 42) ||| ((((bs.getD 26 0))) <<< 34) ||| ((((bs.getD 27 0))) <<< 26) ||| ((((bs.getD 28 0))) <<< 18) ||| ((((bs.getD 29 0))) <<< 10) ||| ((((bs.getD 30 0))) <<< 2) ||| ((((bs.getD 31 0) >>> 6) &&& 0x3)),
    (((((bs.getD 31 0)) &&& 0x3f)) <<< 44) ||| ((((bs.getD 32 0))) <<< 36) ||| ((((bs.getD 33 0))) <<< 28) ||| ((((bs.getD 34 0))) <<< 20) ||| ((((bs.getD 35 0))) <<< 12) ||| ((((bs.getD 36 0))) <<< 4) ||| ((((bs.getD 37 0) >>> 4) &&& 0xf)),
    (((((bs.getD 37 0)) &&& 0xf)) <<< 46) ||| ((((bs.getD 38 0))) <<< 38) ||| ((((bs.getD 39 0))) <<< 30) ||| ((((bs.getD 40 0))) <<< 22) ||| ((((bs.getD 41 0))) <<< 14) ||| ((((bs.getD 42 0))) <<< 6) ||| ((((bs.getD 43 0) >>> 2) &&& 0x3f)),
    (((((bs.getD 43 0)) &&& 0x3)) <<< 48) ||| ((((bs.getD 44 0))) <<< 40) ||| ((((bs.getD 45 0))) <<< 32) ||| ((((bs.getD 46 0))) <<< 24) ||| ((((bs.getD 47 0))) <<< 16) ||| ((((bs.getD 48 0))) <<< 8) ||| (((bs.getD 49 0))) ]

def pack_bits_51 (v0 v1 v2 v3 v4 v5 v6 v7 : Nat) : List Nat :=
  [ u8 (((v0 >>> 43) &&& 0xff)),
    u8 (((v0 >>> 35) &&& 0xff)),
    u8 (((v0 >>> 27) &&& 0xff)),
    u8 (((v0 >>> 19) &&& 0xff)),
    u8 (((v0 >>> 11) &&& 0xff)),
    u8 (((v0 >>> 3) &&& 0xff)),
    u8 (((((v0) &&& 0x7) <<< 5) ||| ((v1 >>> 46) &&& 0x1f))),
    u8 (((v1 >>> 38) &&& 0xff)),
    u8 (((v1 >>> 30) &&& 0xff)),
    u8 (((v1 >>> 22) &&& 0xff)),
    u8 (((v1 >>> 14) &&& 0xff)),
    u8 (((v1 >>> 6) &&& 0xff)),
    u8 (((((v1) &&& 0x3f) <<< 2) ||| ((v2 >>> 49) &&& 0x3))),
    u8 (((v2 >>> 41) &&& 0xff)),
    u8 (((v2 >>> 33) &&& 0xff)),
    u8 (((v2 >>> 25) &&& 0xff)),
    u8 (((v2 >>> 17) &&& 0xff)),
    u8 (((v2 >>> 9) &&& 0xff)),
    u8 (((v2 >>> 1) &&& 0xff)),
    u8 (((((v2) &&& 0x1) <<< 7) ||| ((v3 >>> 44) &&& 0x7f))),
    u8 (((v3 >>> 36) &&& 0xff)),
    u8 (((v3 >>> 28) &&& 0xff)),
    u8 (((v3 >>> 20) &&& 0xff)),
    u8 (((v3 >>> 12) &&& 0xff)),
    u8 (((v3 >>> 4) &&& 0xff)),
    u8 (((((v3) &&& 0xf) <<< 4) ||| ((v4 >>> 47) &&& 0xf))),
    u8 (((v4 >>> 39) &&& 0xff)),
    u8 (((v4 >>> 31) &&& 0xff)),
    u8 (((v4 >>> 23) &&& 0xff)),
    u8 (((v4 >>> 15) &&& 0xff)),
    u8 (((v4 >>> 7) &&& 0xff)),
    u8 (((((v4) &&& 0x7f) <<< 1) ||| ((v5 >>> 50) &&& 0x1))),
    u8 (((v5 >>> 42) &&& 0xff)),
    u8 (((v5 >>> 34) &&& 0xff)),
    u8 (((v5 >>> 26) &&& 0xff)),
    u8 (((v5 >>> 18) &&& 0xff)),
    u8 (((v5 >>> 10) &&& 0xff)),
    u8 (((v5 >>> 2) &&& 0xff)),
    u8 (((((v5) &&& 0x3) <<< 6) ||| ((v6 >>> 45) &&& 0x3f))),
    u8 (((v6 >>> 37) &&& 0xff)),
    u8 (((v6 >>> 29) &&& 0xff)),
    u8 (((v6 >>> 21) &&& 0xff)),
    u8 (((v6 >>> 13) &&& 0xff)),
    u8 (((v6 >>> 5) &&& 0xff)),
    u8 (((((v6) &&& 0x1f) <<< 3) ||| ((v7 >>> 48) &&& 0x7))),
    u8 (((v7 >>> 40) &&& 0xff)),
    u8 (((v7 >>> 32) &&& 0xff)),
    u8 (((v7 >>> 24) &&& 0xff)),
    u8 (((v7 >>> 16) &&& 0xff)),
    u8 (((v7 >>> 8) &&& 0xff)),
    u8 (((v7) &&& 0xff)) ]

def unpack_bits_51 (bs : List Nat) : List Nat :=
  [ ((((bs.getD 0 0))) <<< 43) ||| ((((bs.getD 1 0))) <<< 35) ||| ((((bs.getD 2 0))) <<< 27) ||| ((((bs.getD 3 0))) <<< 19) ||| ((((bs.getD 4 0))) <<< 11) ||| ((((bs.getD 5 0))) <<< 3) ||| ((((bs.getD 6 0) >>> 5) &&& 0x7)),
    (((((bs.getD 6 0)) &&& 0x1f)) <<< 46) ||| ((((bs.getD 7 0))) <<< 38) ||| ((((bs.getD 8 0))) <<< 30) ||| ((((bs.getD 9 0))) <<< 22) ||| ((((bs.getD 10 0))) <<< 14) ||| ((((bs.getD 11 0))) <<< 6) ||| ((((bs.getD 12 0) >>> 2) &&& 0x3f)),
    (((((bs.getD 12 0)) &&& 0x3)) <<< 49) ||| ((((bs.getD 13 0))) <<< 41) ||| ((((bs.getD 14 0))) <<< 33) ||| ((((bs.getD 15 0))) <<< 25) ||| ((((bs.getD 16 0))) <<< 17) ||| ((((bs.getD 17 0))) <<< 9) ||| ((((bs.getD 18 0))) <<< 1) ||| ((((bs.getD 19 0) >>> 7) &&& 0x1)),
    (((((bs.getD 19 0)) &&& 0x7f)) <<< 44) ||| ((((bs.getD 20 0))) <<< 36) ||| ((((bs.getD 21 0))) <<< 28) ||| ((((bs.getD 22 0))) <<< 20) ||| ((((bs.getD 23 0))) <<< 12) ||| ((((bs.getD 24 0))) <<< 4) ||| ((((bs.getD 25 0) >>> 4) &&& 0xf)),
    (((((bs.getD 25 0)) &&& 0xf)) <<< 47) ||| ((((bs.getD 26 0))) <<< 39) ||| ((((bs.getD 27 0))) <<< 31) ||| ((((bs.getD 28 0))) <<< 23) ||| ((((bs.getD 29 0))) <<< 15) ||| ((((bs.getD 30 0))) <<< 7) ||| ((((bs.getD 31 0) >>> 1) &&& 0x7f)),
    (((((bs.getD 31 0)) &&& 0x1)) <<< 50) ||| ((((bs.getD 32 0))) <<< 42) ||| ((((bs.getD 33 0))) <<< 34) ||| ((((bs.getD 34 0))) <<< 26) ||| ((((bs.getD 35 0))) <<< 18) ||| ((((bs.getD 36 0))) <<< 10) ||| ((((bs.getD 37 0))) <<< 2) ||| ((((bs.getD 38 0) >>> 6) &&& 0x3)),
    (((((bs.getD 38 0)) &&& 0x3f)) <<< 45) ||| ((((bs.getD 39 0))) <<< 37) ||| ((((bs.getD 40 0))) <<< 29) ||| ((((bs.getD 41 0))) <<< 21) ||| ((((bs.getD 42 0))) <<< 13) ||| ((((bs.getD 43 0))) <<< 5) ||| ((((bs.getD 44 0) >>> 3) &&& 0x1f)),
    (((((bs.getD 44 0)) &&& 0x7)) <<< 48) ||| ((((bs.getD 45 0))) <<< 40) ||| ((((bs.getD 46 0))) <<< 32) ||| ((((bs.getD 47 0))) <<< 24) ||| ((((bs.getD 48 0))) <<< 16) ||| ((((bs.getD 49 0))) <<< 8) ||| (((bs.getD 50 0))) ]

def pack_bits_52 (v0 v1 v2 v3 v4 v5 v6 v7 : Nat) : List Nat :=
  [ u8 (((v0 >>> 44) &&& 0xff)),
    u8 (((v0 >>> 36) &&& 0xff)),
    u8 (((v0 >>> 28) &&& 0xff)),
    u8 (((v0 >>> 20) &&& 0xff)),
    u8 (((v0 >>> 12) &&& 0xff)),
    u8 (((v0 >>> 4) &&& 0xff)),
    u8 (((((v0) &&& 0xf) <<< 4) ||| ((v1 >>> 48) &&& 0xf))),
    u8 (((v1 >>> 40) &&& 0xff)),
    u8 (((v1 >>> 32) &&& 0xff)),
    u8 (((v1 >>> 24) &&& 0xff)),
    u8 (((v1 >>> 16) &&& 0xff)),
    u8 (((v1 >>> 8) &&& 0xff)),
    u8 (((v1) &&& 0xff)),
    u8 (((v2 >>> 44) &&& 0xff)),
    u8 (((v2 >>> 36) &&& 0xff)),
    u8 (((v2 >>> 28) &&& 0xff)),
    u8 (((v2 >>> 20) &&& 0xff)),
    u8 (((v2 >>> 12) &&& 0xff)),
    u8 (((v2 >>> 4) &&& 0xff)),
    u8 (((((v2) &&& 0xf) <<< 4) ||| ((v3 >>> 48) &&& 0xf))),
    u8 (((v3 >>> 40) &&& 0xff)),
    u8 (((v3 >>> 32) &&& 0xff)),
    u8 (((v3 >>> 24) &&& 0xff)),
    u8 (((v3 >>> 16) &&& 0xff)),
    u8 (((v3 >>> 8) &&& 0xff)),
    u8 (((v3) &&& 0xff)),
    u8 (((v4 >>> 44) &&& 0xff)),
    u8 (((v4 >>> 36) &&& 0xff)),
    u8 (((v4 >>> 28) &&& 0xff)),
    u8 (((v4 >>> 20) &&& 0xff)),
    u8 (((v4 >>> 12) &&& 0xff)),
    u8 (((v4 >>> 4) &&& 0xff)),
    u8 (((((v4) &&& 0xf) <<< 4) ||| ((v5 >>> 48) &&& 0xf))),
    u8 (((v5 >>> 40) &&& 0xff)),
    u8 (((v5 >>> 32) &&& 0xff)),
    u8 (((v5 >>> 24) &&& 0xff)),
    u8 (((v5 >>> 16) &&& 0xff)),
    u8 (((v5 >>> 8) &&& 0xff)),
    u8 (((v5) &&& 0xff)),
    u8 (((v6 >>> 44) &&& 0xff)),
    u8 (((v6 >>> 36) &&& 0xff)),
    u8 (((v6 >>> 28) &&& 0xff)),
    u8 (((v6 >>> 20) &&& 0xff)),
    u8 (((v6 >>> 12) &&& 0xff)),
    u8 (((v6 >>> 4) &&& 0xff)),
    u8 (((((v6) &&& 0xf) <<< 4) ||| ((v7 >>> 48) &&& 0xf))),
    u8 (((v7 >>> 40) &&& 0xff)),
    u8 (((v7 >>> 32) &&& 0xff)),
    u8 (((v7 >>> 24) &&& 0xff)),
    u8 (((v7 >>> 16) &&& 0xff)),
    u8 (((v7 >>> 8) &&& 0xff)),
    u8 (((v7) &&& 0xff)) ]

def unpack_bits_52 (bs : List Nat) : List Nat :=
  [ ((((bs.getD 0 0))) <<< 44) ||| ((((bs.getD 1 0))) <<< 36) ||| ((((bs.getD 2 0))) <<< 28) ||| ((((bs.getD 3 0))) <<< 20) ||| ((((bs.getD 4 0))) <<< 12) ||| ((((bs.getD 5 0))) <<< 4) ||| ((((bs.getD 6 0) >>> 4) &&& 0xf)),
    (((((bs.getD 6 0)) &&& 0xf)) <<< 48) ||| ((((bs.getD 7 0))) <<< 40) ||| ((((bs.getD 8 0))) <<< 32) ||| ((((bs.getD 9 0))) <<< 24) ||| ((((bs.getD 10 0))) <<< 16) ||| ((((bs.getD 11 0))) <<< 8) ||| (((bs.getD 12 0))),
    ((((bs.getD 13 0))) <<< 44) ||| ((((bs.getD 14 0))) <<< 36) ||| ((((bs.getD 15 0))) <<< 28) ||| ((((bs.getD 16 0))) <<< 20) ||| ((((bs.getD 17 0))) <<< 12) ||| ((((bs.getD 18 0))) <<< 4) ||| ((((bs.getD 19 0) >>> 4) &&& 0xf)),
    (((((bs.getD 19 0)) &&& 0xf)) <<< 48) ||| ((((bs.getD 20 0))) <<< 40) ||| ((((bs.getD 21 0))) <<< 32) ||| ((((bs.getD 22 0))) <<< 24) ||| ((((bs.getD 23 0))) <<< 16) ||| ((((bs.getD 24 0))) <<< 8) ||| (((bs.getD 25 0))),
    ((((bs.getD 26 0))) <<< 44) ||| ((((bs.getD 27 0))) <<< 36) ||| ((((bs.getD 28 0))) <<< 28) ||| ((((bs.getD 29 0))) <<< 20) ||| ((((bs.getD 30 0))) <<< 12) ||| ((((bs.getD 31 0))) <<< 4) ||| ((((bs.getD 32 0) >>> 4) &&& 0xf)),
    (((((bs.getD 32 0)) &&& 0xf)) <<< 48) ||| ((((bs.getD 33 0))) <<< 40) ||| ((((bs.getD 34 0))) <<< 32) ||| ((((bs.getD 35 0))) <<< 24) ||| ((((bs.getD 36 0))) <<< 16) ||| ((((bs.getD 37 0))) <<< 8) ||| (((bs.getD 38 0))),
    ((((bs.getD 39 0))) <<< 44) ||| ((((bs.getD 40 0))) <<< 36) ||| ((((bs.getD 41 0))) <<< 28) ||| ((((bs.getD 42 0))) <<< 20) ||| ((((bs.getD 43 0))) <<< 12) ||| ((((bs.getD 44 0))) <<< 4) ||| ((((bs.getD 45 0) >>> 4) &&& 0xf)),
    (((((bs.getD 45 0)) &&& 0xf)) <<< 48) ||| ((((bs.getD 46 0))) <<< 40) ||| ((((bs.getD 47 0))) <<< 32) ||| ((((bs.getD 48 0))) <<< 24) ||| ((((bs.getD 49 0))) <<< 16) ||| ((((bs.getD 50 0))) <<< 8) ||| (((bs.getD 51 0))) ]

def pack_bits_53 (v0 v1 v2 v3 v4 v5 v6 v7 : Nat) : List Nat :=
  [ u8 (((v0 >>> 45) &&& 0xff)),
    u8 (((v0 >>> 37) &&& 0xff)),
    u8 (((v0 >>> 29) &&& 0xff)),
    u8 (((v0 >>> 21) &&& 0xff)),
    u8 (((v0 >>> 13) &&& 0xff)),
    u8 (((v0 >>> 5) &&& 0xff)),
    u8 (((((v0) &&& 0x1f) <<< 3) ||| ((v1 >>> 50) &&& 0x7))),
    u8 (((v1 >>> 42) &&& 0xff)),
    u8 (((v1 >>> 34) &&& 0xff)),
    u8 (((v1 >>> 26) &&& 0xff)),
    u8 (((v1 >>> 18) &&& 0xff)),
    u8 (((v1 >>> 10) &&& 0xff)),
    u8 (((v1 >>> 2) &&& 0xff)),
    u8 (((((v1) &&& 0x3) <<< 6) ||| ((v2 >>> 47) &&& 0x3f))),
    u8 (((v2 >>> 39) &&& 0xff)),
    u8 (((v2 >>> 31) &&& 0xff)),
    u8 (((v2 >>> 23) &&& 0xff)),
    u8 (((v2 >>> 15) &&& 0xff)),
    u8 (((v2 >>> 7) &&& 0xff)),
    u8 (((((v2) &&& 0x7f) <<< 1) ||| ((v3 >>> 52) &&& 0x1))),
    u8 (((v3 >>> 44) &&& 0xff)),
    u8 (((v3 >>> 36) &&& 0xff)),
    u8 (((v3 >>> 28) &&& 0xff)),
    u8 (((v3 >>> 20) &&& 0xff)),
    u8 (((v3 >>> 12) &&& 0xff)),
    u8 (((v3 >>> 4) &&& 0xff)),
    u8 (((((v3) &&& 0xf) <<< 4) ||| ((v4 >>> 49) &&& 0xf))),
    u8 (((v4 >>> 41) &&& 0xff)),
    u8 (((v4 >>> 33) &&& 0xff)),
    u8 (((v4 >>> 25) &&& 0xff)),
    u8 (((v4 >>> 17) &&& 0xff)),
    u8 (((v4 >>> 9) &&& 0xff)),
    u8 (((v4 >>> 1) &&& 0xff)),
    u8 (((((v4) &&& 0x1) <<< 7) ||| ((v5 >>> 46) &&& 0x7f))),
    u8 (((v5 >>> 38) &&& 0xff)),
    u8 (((v5 >>> 30) &&& 0xff)),
    u8 (((v5 >>> 22) &&& 0xff)),
    u8 (((v5 >>> 14) &&& 0xff)),
    u8 (((v5 >>> 6) &&& 0xff)),
    u8 (((((v5) &&& 0x3f) <<< 2) ||| ((v6 >>> 51) &&& 0x3))),
    u8 (((v6 >>> 43) &&& 0xff)),
    u8 (((v6 >>> 35) &&& 0xff)),
    u8 (((v6 >>> 27) &&& 0xff)),
    u8 (((v6 >>> 19) &&& 0xff)),
    u8 (((v6 >>> 11) &&& 0xff)),
    u8 (((v6 >>> 3) &&& 0xff)),
    u8 (((((v6) &&& 0x7) <<< 5) ||| ((v7 >>> 48) &&& 0x1f))),
    u8 (((v7 >>> 40) &&& 0xff)),
    u8 (((v7 >>> 32) &&& 0xff)),
    u8 (((v7 >>> 24) &&& 0xff)),
    u8 (((v7 >>> 16) &&& 0xff)),
    u8 (((v7 >>> 8) &&& 0xff)),
    u8 (((v7) &&& 0xff)) ]

def unpack_bits_53 (bs : List Nat) : List Nat :=
  [ ((((bs.getD 0 0))) <<< 45) ||| ((((bs.getD 1 0))) <<< 37) ||| ((((bs.getD 2 0))) <<< 29) ||| ((((bs.getD 3 0))) <<< 21) ||| ((((bs.getD 4 0))) <<< 13) ||| ((((bs.getD 5 0))) <<< 5) ||| ((((bs.getD 6 0) >>> 3) &&& 0x1f)),
    (((((bs.getD 6 0)) &&& 0x7)) <<< 50) ||| ((((bs.getD 7 0))) <<< 42) ||| ((((bs.getD 8 0))) <<< 34) ||| ((((bs.getD 9 0))) <<< 26) ||| ((((bs.getD 10 0))) <<< 18) ||| ((((bs.getD 11 0))) <<< 10) ||| ((((bs.getD 12 0))) <<< 2) ||| ((((bs.getD 13 0) >>> 6) &&& 0x3)),
    (((((bs.getD 13 0)) &&& 0x3f)) <<< 47) ||| ((((bs.getD 14 0))) <<< 39) ||| ((((bs.getD 15 0))) <<< 31) ||| ((((bs.getD 16 0))) <<< 23) ||| ((((bs.getD 17 0))) <<< 15) ||| ((((bs.getD 18 0))) <<< 7) ||| ((((bs.getD 19 0) >>> 1) &&& 0x7f)),
    (((((bs.getD 19 0)) &&& 0x1)) <<< 52) ||| ((((bs.getD 20 0))) <<< 44) ||| ((((bs.getD 21 0))) <<< 36) ||| ((((bs.getD 22 0))) <<< 28) ||| ((((bs.getD 23 0))) <<< 20) ||| ((((bs.getD 24 0))) <<< 12) ||| ((((bs.getD 25 0))) <<< 4) ||| ((((bs.getD 26 0) >>> 4) &&& 0xf)),
    (((((bs.getD 26 0)) &&& 0xf)) <<< 49) ||| ((((bs.getD 27 0))) <<< 41) ||| ((((bs.getD 28 0))) <<< 33) ||| ((((bs.getD 29 0))) <<< 25) ||| ((((bs.getD 30 0))) <<< 17) ||| ((((bs.getD 31 0))) <<< 9) ||| ((((bs.getD 32 0))) <<< 1) ||| ((((bs.getD 33 0) >>> 7) &&& 0x1)),
    (((((bs.getD 33 0)) &&& 0x7f)) <<< 46) ||| ((((bs.getD 34 0))) <<< 38) ||| ((((bs.getD 35 0))) <<< 30) ||| ((((bs.getD 36 0))) <<< 22) ||| ((((bs.getD 37 0))) <<< 14) ||| ((((bs.getD 38 0))) <<< 6) ||| ((((bs.getD 39 0) >>> 2) &&& 0x3f)),
    (((((bs.getD 39 0)) &&& 0x3)) <<< 51) ||| ((((bs.getD 40 0))) <<< 43) ||| ((((bs.getD 41 0))) <<< 35) ||| ((((bs.getD 42 0))) <<< 27) ||| ((((bs.getD 43 0))) <<< 19) ||| ((((bs.getD 44 0))) <<< 11) ||| ((((bs.getD 45 0))) <<< 3) ||| ((((bs.getD 46 0) >>> 5) &&& 0x7)),
    (((((bs.getD 46 0)) &&& 0x1f)) <<< 48) ||| ((((bs.getD 47 0))) <<< 40) ||| ((((bs.getD 48 0))) <<< 32) ||| ((((bs.getD 49 0))) <<< 24) ||| ((((bs.getD 50 0))) <<< 16) ||| ((((bs.getD 51 0))) <<< 8) ||| (((bs.getD 52 0))) ]

def pack_bits_54 (v0 v1 v2 v3 v4 v5 v6 v7 : Nat) : List Nat :=
  [ u8 (((v0 >>> 46) &&& 0xff)),
    u8 (((v0 >>> 38) &&& 0xff)),
    u8 (((v0 >>> 30) &&& 0xff)),
    u8 (((v0 >>> 22) &&& 0xff)),
    u8 (((v0 >>> 14) &&& 0xff)),
    u8 (((v0 >>> 6) &&& 0xff)),
    u8 (((((v0) &&& 0x3f) <<< 2) ||| ((v1 >>> 52) &&& 0x3))),
    u8 (((v1 >>> 44) &&& 0xff)),
    u8 (((v1 >>> 36) &&& 0xff)),
    u8 (((v1 >>> 28) &&& 0xff)),
    u8 (((v1 >>> 20) &&& 0xff)),
    u8 (((v1 >>> 12) &&& 0xff)),
    u8 (((v1 >>> 4) &&& 0xff)),
    u8 (((((v1) &&& 0xf) <<< 4) ||| ((v2 >>> 50) &&& 0xf))),
    u8 (((v2 >>> 42) &&& 0xff)),
    u8 (((v2 >>> 34) &&& 0xff)),
    u8 (((v2 >>> 26) &&& 0xff)),
    u8 (((v2 >>> 18) &&& 0xff)),
    u8 (((v2 >>> 10) &&& 0xff)),
    u8 (((v2 >>> 2) &&& 0xff)),
    u8 (((((v2) &&& 0x3) <<< 6) ||| ((v3 >>> 48) &&& 0x3f))),
    u8 (((v3 >>> 40) &&& 0xff)),
    u8 (((v3 >>> 32) &&& 0xff)),
    u8 (((v3 >>> 24) &&& 0xff)),
    u8 (((v3 >>> 16) &&& 0xff)),
    u8 (((v3 >>> 8) &&& 0xff)),
    u8 (((v3) &&& 0xff)),
    u8 (((v4 >>> 46) &&& 0xff)),
    u8 (((v4 >>> 38) &&& 0xff)),
    u8 (((v4 >>> 30) &&& 0xff)),
    u8 (((v4 >>> 22) &&& 0xff)),
    u8 (((v4 >>> 14) &&& 0xff)),
    u8 (((v4 >>> 6) &&& 0xff)),
    u8 (((((v4) &&& 0x3f) <<< 2) ||| ((v5 >>> 52) &&& 0x3))),
    u8 (((v5 >>> 44) &&& 0xff)),
    u8 (((v5 >>> 36) &&& 0xff)),
    u8 (((v5 >>> 28) &&& 0xff)),
    u8 (((v5 >>> 20) &&& 0xff)),
    u8 (((v5 >>> 12) &&& 0xff)),
    u8 (((v5 >>> 4) &&& 0xff)),
    u8 (((((v5) &&& 0xf) <<< 4) ||| ((v6 >>> 50) &&& 0xf))),
    u8 (((v6 >>> 42) &&& 0xff)),
    u8 (((v6 >>> 34) &&& 0xff)),
    u8 (((v6 >>> 26) &&& 0xff)),
    u8 (((v6 >>> 18) &&& 0xff)),
    u8 (((v6 >>> 10) &&& 0xff)),
    u8 (((v6 >>> 2) &&& 0xff)),
    u8 (((((v6) &&& 0x3) <<< 6) ||| ((v7 >>> 48) &&& 0x3f))),
    u8 (((v7 >>> 40) &&& 0xff)),
    u8 (((v7 >>> 32) &&& 0xff)),
    u8 (((v7 >>> 24) &&& 0xff)),
    u8 (((v7 >>> 16) &&& 0xff)),
    u8 (((v7 >>> 8) &&& 0xff)),
    u8 (((v7) &&& 0xff)) ]

def unpack_bits_54 (bs : List Nat) : List Nat :=
  [ ((((bs.getD 0 0))) <<< 46) ||| ((((bs.getD 1 0))) <<< 38) ||| ((((bs.getD 2 0))) <<< 30) ||| ((((bs.getD 3 0))) <<< 22) ||| ((((bs.getD 4 0))) <<< 14) ||| ((((bs.getD 5 0))) <<< 6) ||| ((((bs.getD 6 0) >>> 2) &&& 0x3f)),
    (((((bs.getD 6 0)) &&& 0x3)) <<< 52) ||| ((((bs.getD 7 0))) <<< 44) ||| ((((bs.getD 8 0))) <<< 36) ||| ((((bs.getD 9 0))) <<< 28) ||| ((((bs.getD 10 0))) <<< 20) ||| ((((bs.getD 11 0))) <<< 12) ||| ((((bs.getD 12 0))) <<< 4) ||| ((((bs.getD 13 0) >>> 4) &&& 0xf)),
    (((((bs.getD 13 0)) &&& 0xf)) <<< 50) ||| ((((bs.getD 14 0))) <<< 42) ||| ((((bs.getD 15 0))) <<< 34) ||| ((((bs.getD 16 0))) <<< 26) ||| ((((bs.getD 17 0))) <<< 18) ||| ((((bs.getD 18 0))) <<< 10) ||| ((((bs.getD 19 0))) <<< 2) ||| ((((bs.getD 20 0) >>> 6) &&& 0x3)),
    (((((bs.getD 20 0)) &&& 0x3f)) <<< 48) ||| ((((bs.getD 21 0))) <<< 40) ||| ((((bs.getD 22 0))) <<< 32) ||| ((((bs.getD 23 0))) <<< 24) ||| ((((bs.getD 24 0))) <<< 16) ||| ((((bs.getD 25 0))) <<< 8) ||| (((bs.getD 26 0))),
    ((((bs.getD 27 0))) <<< 46) ||| ((((bs.getD 28 0))) <<< 38) ||| ((((bs.getD 29 0))) <<< 30) ||| ((((bs.getD 30 0))) <<< 22) ||| ((((bs.getD 31 0))) <<< 14) ||| ((((bs.getD 32 0))) <<< 6) ||| ((((bs.getD 33 0) >>> 2) &&& 0x3f)),
    (((((bs.getD 33 0)) &&& 0x3)) <<< 52) ||| ((((bs.getD 34 0))) <<< 44) ||| ((((bs.getD 35 0))) <<< 36) ||| ((((bs.getD 36 0))) <<< 28) ||| ((((bs.getD 37 0))) <<< 20) ||| ((((bs.getD 38 0))) <<< 12) ||| ((((bs.getD 39 0))) <<< 4) ||| ((((bs.getD 40 0) >>> 4) &&& 0xf)),
    (((((bs.getD 40 0)) &&& 0xf)) <<< 50) ||| ((((bs.getD 41 0))) <<< 42) ||| ((((bs.getD 42 0))) <<< 34) ||| ((((bs.getD 43 0))) <<< 26) ||| ((((bs.getD 44 0))) <<< 18) ||| ((((bs.getD 45 0))) <<< 10) ||| ((((bs.getD 46 0))) <<< 2) ||| ((((bs.getD 47 0) >>> 6) &&& 0x3)),
    (((((bs.getD 47 0)) &&& 0x3f)) <<< 48) ||| ((((bs.getD 48 0))) <<< 40) ||| ((((bs.getD 49 0))) <<< 32) ||| ((((bs.getD 50 0))) <<< 24) ||| ((((bs.getD 51 0))) <<< 16) ||| ((((bs.getD 52 0))) <<< 8) ||| (((bs.getD 53 0))) ]

def pack_bits_55 (v0 v1 v2 v3 v4 v5 v6 v7 : Nat) : List Nat :=
  [ u8 (((v0 >>> 47) &&& 0xff)),
    u8 (((v0 >>> 39) &&& 0xff)),
    u8 (((v0 >>> 31) &&& 0xff)),
    u8 (((v0 >>> 23) &&& 0xff)),
    u8 (((v0 >>> 15) &&& 0xff)),
    u8 (((v0 >>> 7) &&& 0xff)),
    u8 (((((v0) &&& 0x7f) <<< 1) ||| ((v1 >>> 54) &&& 0x1))),
    u8 (((v1 >>> 46) &&& 0xff)),
    u8 (((v1 >>> 38) &&& 0xff)),
    u8 (((v1 >>> 30) &&& 0xff)),
    u8 (((v1 >>> 22) &&& 0xff)),
    u8 (((v1 >>> 14) &&& 0xff)),
    u8 (((v1 >>> 6) &&& 0xff)),
    u8 (((((v1) &&& 0x3f) <<< 2) ||| ((v2 >>> 53) &&& 0x3))),
    u8 (((v2 >>> 45) &&& 0xff)),
    u8 (((v2 >>> 37) &&& 0xff)),
    u8 (((v2 >>> 29) &&& 0xff)),
    u8 (((v2 >>> 21) &&& 0xff)),
    u8 (((v2 >>> 13) &&& 0xff)),
    u8 (((v2 >>> 5) &&& 0xff)),
    u8 (((((v2) &&& 0x1f) <<< 3) ||| ((v3 >>> 52) &&& 0x7))),
    u8 (((v3 >>> 44) &&& 0xff)),
    u8 (((v3 >>> 36) &&& 0xff)),
    u8 (((v3 >>> 28) &&& 0xff)),
    u8 (((v3 >>> 20) &&& 0xff)),
    u8 (((v3 >>> 12) &&& 0xff)),
    u8 (((v3 >>> 4) &&& 0xff)),
    u8 (((((v3) &&& 0xf) <<< 4) ||| ((v4 >>> 51) &&& 0xf))),
    u8 (((v4 >>> 43) &&& 0xff)),
    u8 (((v4 >>> 35) &&& 0xff)),
    u8 (((v4 >>> 27) &&& 0xff)),
    u8 (((v4 >>> 19) &&& 0xff)),
    u8 (((v4 >>> 11) &&& 0xff)),
    u8 (((v4 >>> 3) &&& 0xff)),
    u8 (((((v4) &&& 0x7) <<< 5) ||| ((v5 >>> 50) &&& 0x1f))),
    u8 (((v5 >>> 42) &&& 0xff)),
    u8 (((v5 >>> 34) &&& 0xff)),
    u8 (((v5 >>> 26) &&& 0xff)),
    u8 (((v5 >>> 18) &&& 0xff)),
    u8 (((v5 >>> 10) &&& 0xff)),
    u8 (((v5 >>> 2) &&& 0xff)),
    u8 (((((v5) &&& 0x3) <<< 6) ||| ((v6 >>> 49) &&& 0x3f))),
    u8 (((v6 >>> 41) &&& 0xff)),
    u8 (((v6 >>> 33) &&& 0xff)),
    u8 (((v6 >>> 25) &&& 0xff)),
    u8 (((v6 >>> 17) &&& 0xff)),
    u8 (((v6 >>> 9) &&& 0xff)),
    u8 (((v6 >>> 1) &&& 0xff)),
    u8 (((((v6) &&& 0x1) <<< 7) ||| ((v7 >>> 48) &&& 0x7f))),
    u8 (((v7 >>> 40) &&& 0xff)),
    u8 (((v7 >>> 32) &&& 0xff)),
    u8 (((v7 >>> 24) &&& 0xff)),
    u8 (((v7 >>> 16) &&& 0xff)),
    u8 (((v7 >>> 8) &&& 0xff)),
    u8 (((v7) &&& 0xff)) ]

def unpack_bits_55 (bs : List Nat) : List Nat :=
  [ ((((bs.getD 0 0))) <<< 47) ||| ((((bs.getD 1 0))) <<< 39) ||| ((((bs.getD 2 0))) <<< 31) ||| ((((bs.getD 3 0))) <<< 23) ||| ((((bs.getD 4 0))) <<< 15) ||| ((((bs.getD 5 0))) <<< 7) ||| ((((bs.getD 6 0) >>> 1) &&& 0x7f)),
    (((((bs.getD 6 0)) &&& 0x1)) <<< 54) ||| ((((bs.getD 7 0))) <<< 46) ||| ((((bs.getD 8 0))) <<< 38) ||| ((((bs.getD 9 0))) <<< 30) ||| ((((bs.getD 10 0))) <<< 22) ||| ((((bs.getD 11 0))) <<< 14) ||| ((((bs.getD 12 0))) <<< 6) ||| ((((bs.getD 13 0) >>> 2) &&& 0x3f)),
    (((((bs.getD 13 0)) &&& 0x3)) <<< 53) ||| ((((bs.getD 14 0))) <<< 45) ||| ((((bs.getD 15 0))) <<< 37) ||| ((((bs.getD 16 0))) <<< 29) ||| ((((bs.getD 17 0))) <<< 21) ||| ((((bs.getD 18 0))) <<< 13) ||| ((((bs.getD 19 0))) <<< 5) ||| ((((bs.getD 20 0) >>> 3) &&& 0x1f)),
    (((((bs.getD 20 0)) &&& 0x7)) <<< 52) ||| ((((bs.getD 21 0))) <<< 44) ||| ((((bs.getD 22 0))) <<< 36) ||| ((((bs.getD 23 0))) <<< 28) ||| ((((bs.getD 24 0))) <<< 20) ||| ((((bs.getD 25 0))) <<< 12) ||| ((((bs.getD 26 0))) <<< 4) ||| ((((bs.getD 27 0) >>> 4) &&& 0xf)),
    (((((bs.getD 27 0)) &&& 0xf)) <<< 51) ||| ((((bs.getD 28 0))) <<< 43) ||| ((((bs.getD 29 0))) <<< 35) ||| ((((bs.getD 30 0))) <<< 27) ||| ((((bs.getD 31 0))) <<< 19) ||| ((((bs.getD 32 0))) <<< 11) ||| ((((bs.getD 33 0))) <<< 3) ||| ((((bs.getD 34 0) >>> 5) &&& 0x7)),
    (((((bs.getD 34 0)) &&& 0x1f)) <<< 50) ||| ((((bs.getD 35 0))) <<< 42) ||| ((((bs.getD 36 0))) <<< 34) ||| ((((bs.getD 37 0))) <<< 26) ||| ((((bs.getD 38 0))) <<< 18) ||| ((((bs.getD 39 0))) <<< 10) ||| ((((bs.getD 40 0))) <<< 2) ||| ((((bs.getD 41 0) >>> 6) &&& 0x3)),
    (((((bs.getD 41 0)) &&& 0x3f)) <<< 49) ||| ((((bs.getD 42 0))) <<< 41) ||| ((((bs.getD 43 0))) <<< 33) ||| ((((bs.getD 44 0))) <<< 25) ||| ((((bs.getD 45 0))) <<< 17) ||| ((((bs.getD 46 0))) <<< 9) ||| ((((bs.getD 47 0))) <<< 1) ||| ((((bs.getD 48 0) >>> 7) &&& 0x1)),
    (((((bs.getD 48 0)) &&& 0x7f)) <<< 48) ||| ((((bs.getD 49 0))) <<< 40) ||| ((((bs.getD 50 0))) <<< 32) ||| ((((bs.getD 51 0))) <<< 24) ||| ((((bs.getD 52 0))) <<< 16) ||| ((((bs.getD 53 0))) <<< 8) ||| (((bs.getD 54 0))) ]

def pack_bits_56 (v0 v1 v2 v3 v4 v5 v6 v7 : Nat) : List Nat :=
  [ u8 (((v0 >>> 48) &&& 0xff)),
    u8 (((v0 >>> 40) &&& 0xff)),
    u8 (((v0 >>> 32) &&& 0xff)),
    u8 (((v0 >>> 24) &&& 0xff)),
    u8 (((v0 >>> 16) &&& 0xff)),
    u8 (((v0 >>> 8) &&& 0xff)),
    u8 (((v0) &&& 0xff)),
    u8 (((v1 >>> 48) &&& 0xff)),
    u8 (((v1 >>> 40) &&& 0xff)),
    u8 (((v1 >>> 32) &&& 0xff)),
    u8 (((v1 >>> 24) &&& 0xff)),
    u8 (((v1 >>> 16) &&& 0xff)),
    u8 (((v1 >>> 8) &&& 0xff)),
    u8 (((v1) &&& 0xff)),
    u8 (((v2 >>> 48) &&& 0xff)),
    u8 (((v2 >>> 40) &&& 0xff)),
    u8 (((v2 >>> 32) &&& 0xff)),
    u8 (((v2 >>> 24) &&& 0xff)),
    u8 (((v2 >>> 16) &&& 0xff)),
    u8 (((v2 >>> 8) &&& 0xff)),
    u8 (((v2) &&& 0xff)),
    u8 (((v3 >>> 48) &&& 0xff)),
    u8 (((v3 >>> 40) &&& 0xff)),
    u8 (((v3 >>> 32) &&& 0xff)),
    u8 (((v3 >>> 24) &&& 0xff)),
    u8 (((v3 >>> 16) &&& 0xff)),
    u8 (((v3 >>> 8) &&& 0xff)),
    u8 (((v3) &&& 0xff)),
    u8 (((v4 >>> 48) &&& 0xff)),
    u8 (((v4 >>> 40) &&& 0xff)),
    u8 (((v4 >>> 32) &&& 0xff)),
    u8 (((v4 >>> 24) &&& 0xff)),
    u8 (((v4 >>> 16) &&& 0xff)),
    u8 (((v4 >>> 8) &&& 0xff)),
    u8 (((v4) &&& 0xff)),
    u8 (((v5 >>> 48) &&& 0xff)),
    u8 (((v5 >>> 40) &&& 0xff)),
    u8 (((v5 >>> 32) &&& 0xff)),
    u8 (((v5 >>> 24) &&& 0xff)),
    u8 (((v5 >>> 16) &&& 0xff)),
    u8 (((v5 >>> 8) &&& 0xff)),
    u8 (((v5) &&& 0xff)),
    u8 (((v6 >>> 48) &&& 0xff)),
    u8 (((v6 >>> 40) &&& 0xff)),
    u8 (((v6 >>> 32) &&& 0xff)),
    u8 (((v6 >>> 24) &&& 0xff)),
    u8 (((v6 >>> 16) &&& 0xff)),
    u8 (((v6 >>> 8) &&& 0xff)),
    u8 (((v6) &&& 0xff)),
    u8 (((v7 >>> 48) &&& 0xff)),
    u8 (((v7 >>> 40) &&& 0xff)),
    u8 (((v7 >>> 32) &&& 0xff)),
    u8 (((v7 >>> 24) &&& 0xff)),
    u8 (((v7 >>> 16) &&& 0xff)),
    u8 (((v7 >>> 8) &&& 0xff)),
    u8 (((v7) &&& 0xff)) ]

def unpack_bits_56 (bs : List Nat) : List Nat :=
  [ ((((bs.getD 0 0))) <<< 48) ||| ((((bs.getD 1 0))) <<< 40) ||| ((((bs.getD 2 0))) <<< 32) ||| ((((bs.getD 3 0))) <<< 24) ||| ((((bs.getD 4 0))) <<< 16) ||| ((((bs.getD 5 0))) <<< 8) ||| (((bs.getD 6 0))),
    ((((bs.getD 7 0))) <<< 48) ||| ((((bs.getD 8 0))) <<< 40) ||| ((((bs.getD 9 0))) <<< 32) ||| ((((bs.getD 10 0))) <<< 24) ||| ((((bs.getD 11 0))) <<< 16) ||| ((((bs.getD 12 0))) <<< 8) ||| (((bs.getD 13 0))),
    ((((bs.getD 14 0))) <<< 48) ||| ((((bs.getD 15 0))) <<< 40) ||| ((((bs.getD 16 0))) <<< 32) ||| ((((bs.getD 17 0))) <<< 24) ||| ((((bs.getD 18 0))) <<< 16) ||| ((((bs.getD 19 0))) <<< 8) ||| (((bs.getD 20 0))),
    ((((bs.getD 21 0))) <<< 48) ||| ((((bs.getD 22 0))) <<< 40) ||| ((((bs.getD 23 0))) <<< 32) ||| ((((bs.getD 24 0))) <<< 24) ||| ((((bs.getD 25 0))) <<< 16) ||| ((((bs.getD 26 0))) <<< 8) ||| (((bs.getD 27 0))),
    ((((bs.getD 28 0))) <<< 48) ||| ((((bs.getD 29 0))) <<< 40) ||| ((((bs.getD 30 0))) <<< 32) ||| ((((bs.getD 31 0))) <<< 24) ||| ((((bs.getD 32 0))) <<< 16) ||| ((((bs.getD 33 0))) <<< 8) ||| (((bs.getD 34 0))),
    ((((bs.getD 35 0))) <<< 48) ||| ((((bs.getD 36 0))) <<< 40) ||| ((((bs.getD 37 0))) <<< 32) ||| ((((bs.getD 38 0))) <<< 24) ||| ((((bs.getD 39 0))) <<< 16) ||| ((((bs.getD 40 0))) <<< 8) ||| (((bs.getD 41 0))),
    ((((bs.getD 42 0))) <<< 48) ||| ((((bs.getD 43 0))) <<< 40) ||| ((((bs.getD 44 0))) <<< 32) ||| ((((bs.getD 45 0))) <<< 24) ||| ((((bs.getD 46 0))) <<< 16) ||| ((((bs.getD 47 0))) <<< 8) ||| (((bs.getD 48 0))),
    ((((bs.getD 49 0))) <<< 48) ||| ((((bs.getD 50 0))) <<< 40) ||| ((((bs.getD 51 0))) <<< 32) ||| ((((bs.getD 52 0))) <<< 24) ||| ((((bs.getD 53 0))) <<< 16) ||| ((((bs.getD 54 0))) <<< 8) ||| (((bs.getD 55 0))) ]

def pack_bits_57 (v0 v1 v2 v3 v4 v5 v6 v7 : Nat) : List Nat :=
  [ u8 (((v0 >>> 49) &&& 0xff)),
    u8 (((v0 >>> 41) &&& 0xff)),
    u8 (((v0 >>> 33) &&& 0xff)),
    u8 (((v0 >>> 25) &&& 0xff)),
    u8 (((v0 >>> 17) &&& 0xff)),
    u8 (((v0 >>> 9) &&& 0xff)),
    u8 (((v0 >>> 1) &&& 0xff)),
    u8 (((((v0) &&& 0x1) <<< 7) ||| ((v1 >>> 50) &&& 0x7f))),
    u8 (((v1 >>> 42) &&& 0xff)),
    u8 (((v1 >>> 34) &&& 0xff)),
    u8 (((v1 >>> 26) &&& 0xff)),
    u8 (((v1 >>> 18) &&& 0xff)),
    u8 (((v1 >>> 10) &&& 0xff)),
    u8 (((v1 >>> 2) &&& 0xff)),
    u8 (((((v1) &&& 0x3) <<< 6) ||| ((v2 >>> 51) &&& 0x3f))),
    u8 (((v2 >>> 43) &&& 0xff)),
    u8 (((v2 >>> 35) &&& 0xff)),
    u8 (((v2 >>> 27) &&& 0xff)),
    u8 (((v2 >>> 19) &&& 0xff)),
    u8 (((v2 >>> 11) &&& 0xff)),
    u8 (((v2 >>> 3) &&& 0xff)),
    u8 (((((v2) &&& 0x7) <<< 5) ||| ((v3 >>> 52) &&& 0x1f))),
    u8 (((v3 >>> 44) &&& 0xff)),
    u8 (((v3 >>> 36) &&& 0xff)),
    u8 (((v3 >>> 28) &&& 0xff)),
    u8 (((v3 >>> 20) &&& 0xff)),
    u8 (((v3 >>> 12) &&& 0xff)),
    u8 (((v3 >>> 4) &&& 0xff)),
    u8 (((((v3) &&& 0xf) <<< 4) ||| ((v4 >>> 53) &&& 0xf))),
    u8 (((v4 >>> 45) &&& 0xff)),
    u8 (((v4 >>> 37) &&& 0xff)),
    u8 (((v4 >>> 29) &&& 0xff)),
    u8 (((v4 >>> 21) &&& 0xff)),
    u8 (((v4 >>> 13) &&& 0xff)),
    u8 (((v4 >>> 5) &&& 0xff)),
    u8 (((((v4) &&& 0x1f) <<< 3) ||| ((v5 >>> 54) &&& 0x7))),
    u8 (((v5 >>> 46) &&& 0xff)),
    u8 (((v5 >>> 38) &&& 0xff)),
    u8 (((v5 >>> 30) &&& 0xff)),
    u8 (((v5 >>> 22) &&& 0xff)),
    u8 (((v5 >>> 14) &&& 0xff)),
    u8 (((v5 >>> 6) &&& 0xff)),
    u8 (((((v5) &&& 0x3f) <<< 2) ||| ((v6 >>> 55) &&& 0x3))),
    u8 (((v6 >>> 47) &&& 0xff)),
    u8 (((v6 >>> 39) &&& 0xff)),
    u8 (((v6 >>> 31) &&& 0xff)),
    u8 (((v6 >>> 23) &&& 0xff)),
    u8 (((v6 >>> 15) &&& 0xff)),
    u8 (((v6 >>> 7) &&& 0xff)),
    u8 (((((v6) &&& 0x7f) <<< 1) ||| ((v7 >>> 56) &&& 0x1))),
    u8 (((v7 >>> 48) &&& 0xff)),
    u8 (((v7 >>> 40) &&& 0xff)),
    u8 (((v7 >>> 32) &&& 0xff)),
    u8 (((v7 >>> 24) &&& 0xff)),
    u8 (((v7 >>> 16) &&& 0xff)),
    u8 (((v7 >>> 8) &&& 0xff)),
    u8 (((v7) &&& 0xff)) ]

def unpack_bits_57 (bs : List Nat) : List Nat :=
  [ ((((bs.getD 0 0))) <<< 49) ||| ((((bs.getD 1 0))) <<< 41) ||| ((((bs.getD 2 0))) <<< 33) ||| ((((bs.getD 3 0))) <<< 25) ||| ((((bs.getD 4 0))) <<< 17) ||| ((((bs.getD 5 0))) <<< 9) ||| ((((bs.getD 6 0))) <<< 1) ||| ((((bs.getD 7 0) >>> 7) &&& 0x1)),
    (((((bs.getD 7 0)) &&& 0x7f)) <<< 50) ||| ((((bs.getD 8 0))) <<< 42) ||| ((((bs.getD 9 0))) <<< 34) ||| ((((bs.getD 10 0))) <<< 26) ||| ((((bs.getD 11 0))) <<< 18) ||| ((((bs.getD 12 0))) <<< 10) ||| ((((bs.getD 13 0))) <<< 2) ||| ((((bs.getD 14 0) >>> 6) &&& 0x3)),
    (((((bs.getD 14 0)) &&& 0x3f)) <<< 51) ||| ((((bs.getD 15 0))) <<< 43) ||| ((((bs.getD 16 0))) <<< 35) ||| ((((bs.getD 17 0))) <<< 27) ||| ((((bs.getD 18 0))) <<< 19) ||| ((((bs.getD 19 0))) <<< 11) ||| ((((bs.getD 20 0))) <<< 3) ||| ((((bs.getD 21 0) >>> 5) &&& 0x7)),
    (((((bs.getD 21 0)) &&& 0x1f)) <<< 52) ||| ((((bs.getD 22 0))) <<< 44) ||| ((((bs.getD 23 0))) <<< 36) ||| ((((bs.getD 24 0))) <<< 28) ||| ((((bs.getD 25 0))) <<< 20) ||| ((((bs.getD 26 0))) <<< 12) ||| ((((bs.getD 27 0))) <<< 4) ||| ((((bs.getD 28 0) >>> 4) &&& 0xf)),
    (((((bs.getD 28 0)) &&& 0xf)) <<< 53) ||| ((((bs.getD 29 0))) <<< 45) ||| ((((bs.getD 30 0))) <<< 37) ||| ((((bs.getD 31 0))) <<< 29) ||| ((((bs.getD 32 0))) <<< 21) ||| ((((bs.getD 33 0))) <<< 13) ||| ((((bs.getD 34 0))) <<< 5) ||| ((((bs.getD 35 0) >>> 3) &&& 0x1f)),
    (((((bs.getD 35 0)) &&& 0x7)) <<< 54) ||| ((((bs.getD 36 0))) <<< 46) ||| ((((bs.getD 37 0))) <<< 38) ||| ((((bs.getD 38 0))) <<< 30) ||| ((((bs.getD 39 0))) <<< 22) ||| ((((bs.getD 40 0))) <<< 14) ||| ((((bs.getD 41 0))) <<< 6) ||| ((((bs.getD 42 0) >>> 2) &&& 0x3f)),
    (((((bs.getD 42 0)) &&& 0x3)) <<< 55) ||| ((((bs.getD 43 0))) <<< 47) ||| ((((bs.getD 44 0))) <<< 39) ||| ((((bs.getD 45 0))) <<< 31) ||| ((((bs.getD 46 0))) <<< 23) ||| ((((bs.getD 47 0))) <<< 15) ||| ((((bs.getD 48 0))) <<< 7) ||| ((((bs.getD 49 0) >>> 1) &&& 0x7f)),
    (((((bs.getD 49 0)) &&& 0x1)) <<< 56) ||| ((((bs.getD 50 0))) <<< 48) ||| ((((bs.getD 51 0))) <<< 40) ||| ((((bs.getD 52 0))) <<< 32) ||| ((((bs.getD 53 0))) <<< 24) ||| ((((bs.getD 54 0))) <<< 16) ||| ((((bs.getD 55 0))) <<< 8) ||| (((bs.getD 56 0))) ]

def pack_bits_58 (v0 v1 v2 v3 v4 v5 v6 v7 : Nat) : List Nat :=
  [ u8 (((v0 >>> 50) &&& 0xff)),
    u8 (((v0 >>> 42) &&& 0xff)),
    u8 (((v0 >>> 34) &&& 0xff)),
    u8 (((v0 >>> 26) &&& 0xff)),
    u8 (((v0 >>> 18) &&& 0xff)),
    u8 (((v0 >>> 10) &&& 0xff)),
    u8 (((v0 >>> 2) &&& 0xff)),
    u8 (((((v0) &&& 0x3) <<< 6) ||| ((v1 >>> 52) &&& 0x3f))),
    u8 (((v1 >>> 44) &&& 0xff)),
    u8 (((v1 >>> 36) &&& 0xff)),
    u8 (((v1 >>> 28) &&& 0xff)),
    u8 (((v1 >>> 20) &&& 0xff)),
    u8 (((v1 >>> 12) &&& 0xff)),
    u8 (((v1 >>> 4) &&& 0xff)),
    u8 (((((v1) &&& 0xf) <<< 4) ||| ((v2 >>> 54) &&& 0xf))),
    u8 (((v2 >>> 46) &&& 0xff)),
    u8 (((v2 >>> 38) &&& 0xff)),
    u8 (((v2 >>> 30) &&& 0xff)),
    u8 (((v2 >>> 22) &&& 0xff)),
    u8 (((v2 >>> 14) &&& 0xff)),
    u8 (((v2 >>> 6) &&& 0xff)),
    u8 (((((v2) &&& 0x3f) <<< 2) ||| ((v3 >>> 56) &&& 0x3))),
    u8 (((v3 >>> 48) &&& 0xff)),
    u8 (((v3 >>> 40) &&& 0xff)),
    u8 (((v3 >>> 32) &&& 0xff)),
    u8 (((v3 >>> 24) &&& 0xff)),
    u8 (((v3 >>> 16) &&& 0xff)),
    u8 (((v3 >>> 8) &&& 0xff)),
    u8 (((v3) &&& 0xff)),
    u8 (((v4 >>> 50) &&& 0xff)),
    u8 (((v4 >>> 42) &&& 0xff)),
    u8 (((v4 >>> 34) &&& 0xff)),
    u8 (((v4 >>> 26) &&& 0xff)),
    u8 (((v4 >>> 18) &&& 0xff)),
    u8 (((v4 >>> 10) &&& 0xff)),
    u8 (((v4 >>> 2) &&& 0xff)),
    u8 (((((v4) &&& 0x3) <<< 6) ||| ((v5 >>> 52) &&& 0x3f))),
    u8 (((v5 >>> 44) &&& 0xff)),
    u8 (((v5 >>> 36) &&& 0xff)),
    u8 (((v5 >>> 28) &&& 0xff)),
    u8 (((v5 >>> 20) &&& 0xff)),
    u8 (((v5 >>> 12) &&& 0xff)),
    u8 (((v5 >>> 4) &&& 0xff)),
    u8 (((((v5) &&& 0xf) <<< 4) ||| ((v6 >>> 54) &&& 0xf))),
    u8 (((v6 >>> 46) &&& 0xff)),
    u8 (((v6 >>> 38) &&& 0xff)),
    u8 (((v6 >>> 30) &&& 0xff)),
    u8 (((v6 >>> 22) &&& 0xff)),
    u8 (((v6 >>> 14) &&& 0xff)),
    u8 (((v6 >>> 6) &&& 0xff)),
    u8 (((((v6) &&& 0x3f) <<< 2) ||| ((v7 >>> 56) &&& 0x3))),
    u8 (((v7 >>> 48) &&& 0xff)),
    u8 (((v7 >>> 40) &&& 0xff)),
    u8 (((v7 >>> 32) &&& 0xff)),
    u8 (((v7 >>> 24) &&& 0xff)),
    u8 (((v7 >>> 16) &&& 0xff)),
    u8 (((v7 >>> 8) &&& 0xff)),
    u8 (((v7) &&& 0xff)) ]

def unpack_bits_58 (bs : List Nat) : List Nat :=
  [ ((((bs.getD 0 0))) <<< 50) ||| ((((bs.getD 1 0))) <<< 42) ||| ((((bs.getD 2 0))) <<< 34) ||| ((((bs.getD 3 0))) <<< 26) ||| ((((bs.getD 4 0))) <<< 18) ||| ((((bs.getD 5 0))) <<< 10) ||| ((((bs.getD 6 0))) <<< 2) ||| ((((bs.getD 7 0) >>> 6) &&& 0x3)),
    (((((bs.getD 7 0)) &&& 0x3f)) <<< 52) ||| ((((bs.getD 8 0))) <<< 44) ||| ((((bs.getD 9 0))) <<< 36) ||| ((((bs.getD 10 0))) <<< 28) ||| ((((bs.getD 11 0))) <<< 20) ||| ((((bs.getD 12 0))) <<< 12) ||| ((((bs.getD 13 0))) <<< 4) ||| ((((bs.getD 14 0) >>> 4) &&& 0xf)),
    (((((bs.getD 14 0)) &&& 0xf)) <<< 54) ||| ((((bs.getD 15 0))) <<< 46) ||| ((((bs.getD 16 0))) <<< 38) ||| ((((bs.getD 17 0))) <<< 30) ||| ((((bs.getD 18 0))) <<< 22) ||| ((((bs.getD 19 0))) <<< 14) ||| ((((bs.getD 20 0))) <<< 6) ||| ((((bs.getD 21 0) >>> 2) &&& 0x3f)),
    (((((bs.getD 21 0)) &&& 0x3)) <<< 56) ||| ((((bs.getD 22 0))) <<< 48) ||| ((((bs.getD 23 0))) <<< 40) ||| ((((bs.getD 24 0))) <<< 32) ||| ((((bs.getD 25 0))) <<< 24) ||| ((((bs.getD 26 0))) <<< 16) ||| ((((bs.getD 27 0))) <<< 8) ||| (((bs.getD 28 0))),
    ((((bs.getD 29 0))) <<< 50) ||| ((((bs.getD 30 0))) <<< 42) ||| ((((bs.getD 31 0))) <<< 34) ||| ((((bs.getD 32 0))) <<< 26) ||| ((((bs.getD 33 0))) <<< 18) ||| ((((bs.getD 34 0))) <<< 10) ||| ((((bs.getD 35 0))) <<< 2) ||| ((((bs.getD 36 0) >>> 6) &&& 0x3)),
    (((((bs.getD 36 0)) &&& 0x3f)) <<< 52) ||| ((((bs.getD 37 0))) <<< 44) ||| ((((bs.getD 38 0))) <<< 36) ||| ((((bs.getD 39 0))) <<< 28) ||| ((((bs.getD 40 0))) <<< 20) ||| ((((bs.getD 41 0))) <<< 12) ||| ((((bs.getD 42 0))) <<< 4) ||| ((((bs.getD 43 0) >>> 4) &&& 0xf)),
    (((((bs.getD 43 0)) &&& 0xf)) <<< 54) ||| ((((bs.getD 44 0))) <<< 46) ||| ((((bs.getD 45 0))) <<< 38) ||| ((((bs.getD 46 0))) <<< 30) ||| ((((bs.getD 47 0))) <<< 22) ||| ((((bs.getD 48 0))) <<< 14) ||| ((((bs.getD 49 0))) <<< 6) ||| ((((bs.getD 50 0) >>> 2) &&& 0x3f)),
    (((((bs.getD 50 0)) &&& 0x3)) <<< 56) ||| ((((bs.getD 51 0))) <<< 48) ||| ((((bs.getD 52 0))) <<< 40) ||| ((((bs.getD 53 0))) <<< 32) ||| ((((bs.getD 54 0))) <<< 24) ||| ((((bs.getD 55 0))) <<< 16) ||| ((((bs.getD 56 0))) <<< 8) ||| (((bs.getD 57 0))) ]

def pack_bits_59 (v0 v1 v2 v3 v4 v5 v6 v7 : Nat) : List Nat :=
  [ u8 (((v0 >>> 51) &&& 0xff)),
    u8 (((v0 >>> 43) &&& 0xff)),
    u8 (((v0 >>> 35) &&& 0xff)),
    u8 (((v0 >>> 27) &&& 0xff)),
    u8 (((v0 >>> 19) &&& 0xff)),
    u8 (((v0 >>> 11) &&& 0xff)),
    u8 (((v0 >>> 3) &&& 0xff)),
    u8 (((((v0) &&& 0x7) <<< 5) ||| ((v1 >>> 54) &&& 0x1f))),
    u8 (((v1 >>> 46) &&& 0xff)),
    u8 (((v1 >>> 38) &&& 0xff)),
    u8 (((v1 >>> 30) &&& 0xff)),
    u8 (((v1 >>> 22) &&& 0xff)),
    u8 (((v1 >>> 14) &&& 0xff)),
    u8 (((v1 >>> 6) &&& 0xff)),
    u8 (((((v1) &&& 0x3f) <<< 2) ||| ((v2 >>> 57) &&& 0x3))),
    u8 (((v2 >>> 49) &&& 0xff)),
    u8 (((v2 >>> 41) &&& 0xff)),
    u8 (((v2 >>> 33) &&& 0xff)),
    u8 (((v2 >>> 25) &&& 0xff)),
    u8 (((v2 >>> 17) &&& 0xff)),
    u8 (((v2 >>> 9) &&& 0xff)),
    u8 (((v2 >>> 1) &&& 0xff)),
    u8 (((((v2) &&& 0x1) <<< 7) ||| ((v3 >>> 52) &&& 0x7f))),
    u8 (((v3 >>> 44) &&& 0xff)),
    u8 (((v3 >>> 36) &&& 0xff)),
    u8 (((v3 >>> 28) &&& 0xff)),
    u8 (((v3 >>> 20) &&& 0xff)),
    u8 (((v3 >>> 12) &&& 0xff)),
    u8 (((v3 >>> 4) &&& 0xff)),
    u8 (((((v3) &&& 0xf) <<< 4) ||| ((v4 >>> 55) &&& 0xf))),
    u8 (((v4 >>> 47) &&& 0xff)),
    u8 (((v4 >>> 39) &&& 0xff)),
    u8 (((v4 >>> 31) &&& 0xff)),
    u8 (((v4 >>> 23) &&& 0xff)),
    u8 (((v4 >>> 15) &&& 0xff)),
    u8 (((v4 >>> 7) &&& 0xff)),
    u8 (((((v4) &&& 0x7f) <<< 1) ||| ((v5 >>> 58) &&& 0x1))),
    u8 (((v5 >>> 50) &&& 0xff)),
    u8 (((v5 >>> 42) &&& 0xff)),
    u8 (((v5 >>> 34) &&& 0xff)),
    u8 (((v5 >>> 26) &&& 0xff)),
    u8 (((v5 >>> 18) &&& 0xff)),
    u8 (((v5 >>> 10) &&& 0xff)),
    u8 (((v5 >>> 2) &&& 0xff)),
    u8 (((((v5) &&& 0x3) <<< 6) ||| ((v6 >>> 53) &&& 0x3f))),
    u8 (((v6 >>> 45) &&& 0xff)),
    u8 (((v6 >>> 37) &&& 0xff)),
    u8 (((v6 >>> 29) &&& 0xff)),
    u8 (((v6 >>> 21) &&& 0xff)),
    u8 (((v6 >>> 13) &&& 0xff)),
    u8 (((v6 >>> 5) &&& 0xff)),
    u8 (((((v6) &&& 0x1f) <<< 3) ||| ((v7 >>> 56) &&& 0x7))),
    u8 (((v7 >>> 48) &&& 0xff)),
    u8 (((v7 >>> 40) &&& 0xff)),
    u8 (((v7 >>> 32) &&& 0xff)),
    u8 (((v7 >>> 24) &&& 0xff)),
    u8 (((v7 >>> 16) &&& 0xff)),
    u8 (((v7 >>> 8) &&& 0xff)),
    u8 (((v7) &&& 0xff)) ]

def unpack_bits_59 (bs : List Nat) : List Nat :=
  [ ((((bs.getD 0 0))) <<< 51) ||| ((((bs.getD 1 0))) <<< 43) ||| ((((bs.getD 2 0))) <<< 35) ||| ((((bs.getD 3 0))) <<< 27) ||| ((((bs.getD 4 0))) <<< 19) ||| ((((bs.getD 5 0))) <<< 11) ||| ((((bs.getD 6 0))) <<< 3) ||| ((((bs.getD 7 0) >>> 5) &&& 0x7)),
    (((((bs.getD 7 0)) &&& 0x1f)) <<< 54) ||| ((((bs.getD 8 0))) <<< 46) ||| ((((bs.getD 9 0))) <<< 38) ||| ((((bs.getD 10 0))) <<< 30) ||| ((((bs.getD 11 0))) <<< 22) ||| ((((bs.getD 12 0))) <<< 14) ||| ((((bs.getD 13 0))) <<< 6) ||| ((((bs.getD 14 0) >>> 2) &&& 0x3f)),
    (((((bs.getD 14 0)) &&& 0x3)) <<< 57) ||| ((((bs.getD 15 0))) <<< 49) ||| ((((bs.getD 16 0))) <<< 41) ||| ((((bs.getD 17 0))) <<< 33) ||| ((((bs.getD 18 0))) <<< 25) ||| ((((bs.getD 19 0))) <<< 17) ||| ((((bs.getD 20 0))) <<< 9) ||| ((((bs.getD 21 0))) <<< 1) ||| ((((bs.getD 22 0) >>> 7) &&& 0x1)),
    (((((bs.getD 22 0)) &&& 0x7f)) <<< 52) ||| ((((bs.getD 23 0))) <<< 44) ||| ((((bs.getD 24 0))) <<< 36) ||| ((((bs.getD 25 0))) <<< 28) ||| ((((bs.getD 26 0))) <<< 20) ||| ((((bs.getD 27 0))) <<< 12) ||| ((((bs.getD 28 0))) <<< 4) ||| ((((bs.getD 29 0) >>> 4) &&& 0xf)),
    (((((bs.getD 29 0)) &&& 0xf)) <<< 55) ||| ((((bs.getD 30 0))) <<< 47) ||| ((((bs.getD 31 0))) <<< 39) ||| ((((bs.getD 32 0))) <<< 31) ||| ((((bs.getD 33 0))) <<< 23) ||| ((((bs.getD 34 0))) <<< 15) ||| ((((bs.getD 35 0))) <<< 7) ||| ((((bs.getD 36 0) >>> 1) &&& 0x7f)),
    (((((bs.getD 36 0)) &&& 0x1)) <<< 58) ||| ((((bs.getD 37 0))) <<< 50) ||| ((((bs.getD 38 0))) <<< 42) ||| ((((bs.getD 39 0))) <<< 34) ||| ((((bs.getD 40 0))) <<< 26) ||| ((((bs.getD 41 0))) <<< 18) ||| ((((bs.getD 42 0))) <<< 10) ||| ((((bs.getD 43 0))) <<< 2) ||| ((((bs.getD 44 0) >>> 6) &&& 0x3)),
    (((((bs.getD 44 0)) &&& 0x3f)) <<< 53) ||| ((((bs.getD 45 0))) <<< 45) ||| ((((bs.getD 46 0))) <<< 37) ||| ((((bs.getD 47 0))) <<< 29) ||| ((((bs.getD 48 0))) <<< 21) ||| ((((bs.getD 49 0))) <<< 13) ||| ((((bs.getD 50 0))) <<< 5) ||| ((((bs.getD 51 0) >>> 3) &&& 0x1f)),
    (((((bs.getD 51 0)) &&& 0x7)) <<< 56) ||| ((((bs.getD 52 0))) <<< 48) ||| ((((bs.getD 53 0))) <<< 40) ||| ((((bs.getD 54 0))) <<< 32) ||| ((((bs.getD 55 0))) <<< 24) ||| ((((bs.getD 56 0))) <<< 16) ||| ((((bs.getD 57 0))) <<< 8) ||| (((bs.getD 58 0))) ]

def pack_bits_60 (v0 v1 v2 v3 v4 v5 v6 v7 : Nat) : List Nat :=
  [ u8 (((v0 >>> 52) &&& 0xff)),
    u8 (((v0 >>> 44) &&& 0xff)),
    u8 (((v0 >>> 36) &&& 0xff)),
    u8 (((v0 >>> 28) &&& 0xff)),
    u8 (((v0 >>> 20) &&& 0xff)),
    u8 (((v0 >>> 12) &&& 0xff)),
    u8 (((v0 >>> 4) &&& 0xff)),
    u8 (((((v0) &&& 0xf) <<< 4) ||| ((v1 >>> 56) &&& 0xf))),
    u8 (((v1 >>> 48) &&& 0xff)),
    u8 (((v1 >>> 40) &&& 0xff)),
    u8 (((v1 >>> 32) &&& 0xff)),
    u8 (((v1 >>> 24) &&& 0xff)),
    u8 (((v1 >>> 16) &&& 0xff)),
    u8 (((v1 >>> 8) &&& 0xff)),
    u8 (((v1) &&& 0xff)),
    u8 (((v2 >>> 52) &&& 0xff)),
    u8 (((v2 >>> 44) &&& 0xff)),
    u8 (((v2 >>> 36) &&& 0xff)),
    u8 (((v2 >>> 28) &&& 0xff)),
    u8 (((v2 >>> 20) &&& 0xff)),
    u8 (((v2 >>> 12) &&& 0xff)),
    u8 (((v2 >>> 4) &&& 0xff)),
    u8 (((((v2) &&& 0xf) <<< 4) ||| ((v3 >>> 56) &&& 0xf))),
    u8 (((v3 >>> 48) &&& 0xff)),
    u8 (((v3 >>> 40) &&& 0xff)),
    u8 (((v3 >>> 32) &&& 0xff)),
    u8 (((v3 >>> 24) &&& 0xff)),
    u8 (((v3 >>> 16) &&& 0xff)),
    u8 (((v3 >>> 8) &&& 0xff)),
    u8 (((v3) &&& 0xff)),
    u8 (((v4 >>> 52) &&& 0xff)),
    u8 (((v4 >>> 44) &&& 0xff)),
    u8 (((v4 >>> 36) &&& 0xff)),
    u8 (((v4 >>> 28) &&& 0xff)),
    u8 (((v4 >>> 20) &&& 0xff)),
    u8 (((v4 >>> 12) &&& 0xff)),
    u8 (((v4 >>> 4) &&& 0xff)),
    u8 (((((v4) &&& 0xf) <<< 4) ||| ((v5 >>> 56) &&& 0xf))),
    u8 (((v5 >>> 48) &&& 0xff)),
    u8 (((v5 >>> 40) &&& 0xff)),
    u8 (((v5 >>> 32) &&& 0xff)),
    u8 (((v5 >>> 24) &&& 0xff)),
    u8 (((v5 >>> 16) &&& 0xff)),
    u8 (((v5 >>> 8) &&& 0xff)),
    u8 (((v5) &&& 0xff)),
    u8 (((v6 >>> 52) &&& 0xff)),
    u8 (((v6 >>> 44) &&& 0xff)),
    u8 (((v6 >>> 36) &&& 0xff)),
    u8 (((v6 >>> 28) &&& 0xff)),
    u8 (((v6 >>> 20) &&& 0xff)),
    u8 (((v6 >>> 12) &&& 0xff)),
    u8 (((v6 >>> 4) &&& 0xff)),
    u8 (((((v6) &&& 0xf) <<< 4) ||| ((v7 >>> 56) &&& 0xf))),
    u8 (((v7 >>> 48) &&& 0xff)),
    u8 (((v7 >>> 40) &&& 0xff)),
    u8 (((v7 >>> 32) &&& 0xff)),
    u8 (((v7 >>> 24) &&& 0xff)),
    u8 (((v7 >>> 16) &&& 0xff)),
    u8 (((v7 >>> 8) &&& 0xff)),
    u8 (((v7) &&& 0xff)) ]

def unpack_bits_60 (bs : List Nat) : List Nat :=
  [ ((((bs.getD 0 0))) <<< 52) ||| ((((bs.getD 1 0))) <<< 44) ||| ((((bs.getD 2 0))) <<< 36) ||| ((((bs.getD 3 0))) <<< 28) ||| ((((bs.getD 4 0))) <<< 20) ||| ((((bs.getD 5 0))) <<< 12) ||| ((((bs.getD 6 0))) <<< 4) ||| ((((bs.getD 7 0) >>> 4) &&& 0xf)),
    (((((bs.getD 7 0)) &&& 0xf)) <<< 56) ||| ((((bs.getD 8 0))) <<< 48) ||| ((((bs.getD 9 0))) <<< 40) ||| ((((bs.getD 10 0))) <<< 32) ||| ((((bs.getD 11 0))) <<< 24) ||| ((((bs.getD 12 0))) <<< 16) ||| ((((bs.getD 13 0))) <<< 8) ||| (((bs.getD 14 0))),
    ((((bs.getD 15 0))) <<< 52) ||| ((((bs.getD 16 0))) <<< 44) ||| ((((bs.getD 17 0))) <<< 36) ||| ((((bs.getD 18 0))) <<< 28) ||| ((((bs.getD 19 0))) <<< 20) ||| ((((bs.getD 20 0))) <<< 12) ||| ((((bs.getD 21 0))) <<< 4) ||| ((((bs.getD 22 0) >>> 4) &&& 0xf)),
    (((((bs.getD 22 0)) &&& 0xf)) <<< 56) ||| ((((bs.getD 23 0))) <<< 48) ||| ((((bs.getD 24 0))) <<< 40) ||| ((((bs.getD 25 0))) <<< 32) ||| ((((bs.getD 26 0))) <<< 24) ||| ((((bs.getD 27 0))) <<< 16) ||| ((((bs.getD 28 0))) <<< 8) ||| (((bs.getD 29 0))),
    ((((bs.getD 30 0))) <<< 52) ||| ((((bs.getD 31 0))) <<< 44) ||| ((((bs.getD 32 0))) <<< 36) ||| ((((bs.getD 33 0))) <<< 28) ||| ((((bs.getD 34 0))) <<< 20) ||| ((((bs.getD 35 0))) <<< 12) ||| ((((bs.getD 36 0))) <<< 4) ||| ((((bs.getD 37 0) >>> 4) &&& 0xf)),
    (((((bs.getD 37 0)) &&& 0xf)) <<< 56) ||| ((((bs.getD 38 0))) <<< 48) ||| ((((bs.getD 39 0))) <<< 40) ||| ((((bs.getD 40 0))) <<< 32) ||| ((((bs.getD 41 0))) <<< 24) ||| ((((bs.getD 42 0))) <<< 16) ||| ((((bs.getD 43 0))) <<< 8) ||| (((bs.getD 44 0))),
    ((((bs.getD 45 0))) <<< 52) ||| ((((bs.getD 46 0))) <<< 44) ||| ((((bs.getD 47 0))) <<< 36) ||| ((((bs.getD 48 0))) <<< 28) ||| ((((bs.getD 49 0))) <<< 20) ||| ((((bs.getD 50 0))) <<< 12) ||| ((((bs.getD 51 0))) <<< 4) ||| ((((bs.getD 52 0) >>> 4) &&& 0xf)),
    (((((bs.getD 52 0)) &&& 0xf)) <<< 56) ||| ((((bs.getD 53 0))) <<< 48) ||| ((((bs.getD 54 0))) <<< 40) ||| ((((bs.getD 55 0))) <<< 32) ||| ((((bs.getD 56 0))) <<< 24) ||| ((((bs.getD 57 0))) <<< 16) ||| ((((bs.getD 58 0))) <<< 8) ||| (((bs.getD 59 0))) ]

def pack_bits_61 (v0 v1 v2 v3 v4 v5 v6 v7 : Nat) : List Nat :=
  [ u8 (((v0 >>> 53) &&& 0xff)),
    u8 (((v0 >>> 45) &&& 0xff)),
    u8 (((v0 >>> 37) &&& 0xff)),
    u8 (((v0 >>> 29) &&& 0xff)),
    u8 (((v0 >>> 21) &&& 0xff)),
    u8 (((v0 >>> 13) &&& 0xff)),
    u8 (((v0 >>> 5) &&& 0xff)),
    u8 (((((v0) &&& 0x1f) <<< 3) ||| ((v1 >>> 58) &&& 0x7))),
    u8 (((v1 >>> 50) &&& 0xff)),
    u8 (((v1 >>> 42) &&& 0xff)),
    u8 (((v1 >>> 34) &&& 0xff)),
    u8 (((v1 >>> 26) &&& 0xff)),
    u8 (((v1 >>> 18) &&& 0xff)),
    u8 (((v1 >>> 10) &&& 0xff)),
    u8 (((v1 >>> 2) &&& 0xff)),
    u8 (((((v1) &&& 0x3) <<< 6) ||| ((v2 >>> 55) &&& 0x3f))),
    u8 (((v2 >>> 47) &&& 0xff)),
    u8 (((v2 >>> 39) &&& 0xff)),
    u8 (((v2 >>> 31) &&& 0xff)),
    u8 (((v2 >>> 23) &&& 0xff)),
    u8 (((v2 >>> 15) &&& 0xff)),
    u8 (((v2 >>> 7) &&& 0xff)),
    u8 (((((v2) &&& 0x7f) <<< 1) ||| ((v3 >>> 60) &&& 0x1))),
    u8 (((v3 >>> 52) &&& 0xff)),
    u8 (((v3 >>> 44) &&& 0xff)),
    u8 (((v3 >>> 36) &&& 0xff)),
    u8 (((v3 >>> 28) &&& 0xff)),
    u8 (((v3 >>> 20) &&& 0xff)),
    u8 (((v3 >>> 12) &&& 0xff)),
    u8 (((v3 >>> 4) &&& 0xff)),
    u8 (((((v3) &&& 0xf) <<< 4) ||| ((v4 >>> 57) &&& 0xf))),
    u8 (((v4 >>> 49) &&& 0xff)),
    u8 (((v4 >>> 41) &&& 0xff)),
    u8 (((v4 >>> 33) &&& 0xff)),
    u8 (((v4 >>> 25) &&& 0xff)),
    u8 (((v4 >>> 17) &&& 0xff)),
    u8 (((v4 >>> 9) &&& 0xff)),
    u8 (((v4 >>> 1) &&& 0xff)),
    u8 (((((v4) &&& 0x1) <<< 7) ||| ((v5 >>> 54) &&& 0x7f))),
    u8 (((v5 >>> 46) &&& 0xff)),
    u8 (((v5 >>> 38) &&& 0xff)),
    u8 (((v5 >>> 30) &&& 0xff)),
    u8 (((v5 >>> 22) &&& 0xff)),
    u8 (((v5 >>> 14) &&& 0xff)),
    u8 (((v5 >>> 6) &&& 0xff)),
    u8 (((((v5) &&& 0x3f) <<< 2) ||| ((v6 >>> 59) &&& 0x3))),
    u8 (((v6 >>> 51) &&& 0xff)),
    u8 (((v6 >>> 43) &&& 0xff)),
    u8 (((v6 >>> 35) &&& 0xff)),
    u8 (((v6 >>> 27) &&& 0xff)),
    u8 (((v6 >>> 19) &&& 0xff)),
    u8 (((v6 >>> 11) &&& 0xff)),
    u8 (((v6 >>> 3) &&& 0xff)),
    u8 (((((v6) &&& 0x7) <<< 5) ||| ((v7 >>> 56) &&& 0x1f))),
    u8 (((v7 >>> 48) &&& 0xff)),
    u8 (((v7 >>> 40) &&& 0xff)),
    u8 (((v7 >>> 32) &&& 0xff)),
    u8 (((v7 >>> 24) &&& 0xff)),
    u8 (((v7 >>> 16) &&& 0xff)),
    u8 (((v7 >>> 8) &&& 0xff)),
    u8 (((v7) &&& 0xff)) ]

def unpack_bits_61 (bs : List Nat) : List Nat :=
  [ ((((bs.getD 0 0))) <<< 53) ||| ((((bs.getD 1 0))) <<< 45) ||| ((((bs.getD 2 0))) <<< 37) ||| ((((bs.getD 3 0))) <<< 29) ||| ((((bs.getD 4 0))) <<< 21) ||| ((((bs.getD 5 0))) <<< 13) ||| ((((bs.getD 6 0))) <<< 5) ||| ((((bs.getD 7 0) >>> 3) &&& 0x1f)),
    (((((bs.getD 7 0)) &&& 0x7)) <<< 58) ||| ((((bs.getD 8 0))) <<< 50) ||| ((((bs.getD 9 0))) <<< 42) ||| ((((bs.getD 10 0))) <<< 34) ||| ((((bs.getD 11 0))) <<< 26) ||| ((((bs.getD 12 0))) <<< 18) ||| ((((bs.getD 13 0))) <<< 10) ||| ((((bs.getD 14 0))) <<< 2) ||| ((((bs.getD 15 0) >>> 6) &&& 0x3)),
    (((((bs.getD 15 0)) &&& 0x3f)) <<< 55) ||| ((((bs.getD 16 0))) <<< 47) ||| ((((bs.getD 17 0))) <<< 39) ||| ((((bs.getD 18 0))) <<< 31) ||| ((((bs.getD 19 0))) <<< 23) ||| ((((bs.getD 20 0))) <<< 15) ||| ((((bs.getD 21 0))) <<< 7) ||| ((((bs.getD 22 0) >>> 1) &&& 0x7f)),
    (((((bs.getD 22 0)) &&& 0x1)) <<< 60) ||| ((((bs.getD 23 0))) <<< 52) ||| ((((bs.getD 24 0))) <<< 44) ||| ((((bs.getD 25 0))) <<< 36) ||| ((((bs.getD 26 0))) <<< 28) ||| ((((bs.getD 27 0))) <<< 20) ||| ((((bs.getD 28 0))) <<< 12) ||| ((((bs.getD 29 0))) <<< 4) ||| ((((bs.getD 30 0) >>> 4) &&& 0xf)),
    (((((bs.getD 30 0)) &&& 0xf)) <<< 57) ||| ((((bs.getD 31 0))) <<< 49) ||| ((((bs.getD 32 0))) <<< 41) ||| ((((bs.getD 33 0))) <<< 33) ||| ((((bs.getD 34 0))) <<< 25) ||| ((((bs.getD 35 0))) <<< 17) ||| ((((bs.getD 36 0))) <<< 9) ||| ((((bs.getD 37 0))) <<< 1) ||| ((((bs.getD 38 0) >>> 7) &&& 0x1)),
    (((((bs.getD 38 0)) &&& 0x7f)) <<< 54) ||| ((((bs.getD 39 0))) <<< 46) ||| ((((bs.getD 40 0))) <<< 38) ||| ((((bs.getD 41 0))) <<< 30) ||| ((((bs.getD 42 0))) <<< 22) ||| ((((bs.getD 43 0))) <<< 14) ||| ((((bs.getD 44 0))) <<< 6) ||| ((((bs.getD 45 0) >>> 2) &&& 0x3f)),
    (((((bs.getD 45 0)) &&& 0x3)) <<< 59) ||| ((((bs.getD 46 0))) <<< 51) ||| ((((bs.getD 47 0))) <<< 43) ||| ((((bs.getD 48 0))) <<< 35) ||| ((((bs.getD 49 0))) <<< 27) ||| ((((bs.getD 50 0))) <<< 19) ||| ((((bs.getD 51 0))) <<< 11) ||| ((((bs.getD 52 0))) <<< 3) ||| ((((bs.getD 53 0) >>> 5) &&& 0x7)),
    (((((bs.getD 53 0)) &&& 0x1f)) <<< 56) ||| ((((bs.getD 54 0))) <<< 48) ||| ((((bs.getD 55 0))) <<< 40) ||| ((((bs.getD 56 0))) <<< 32) ||| ((((bs.getD 57 0))) <<< 24) ||| ((((bs.getD 58 0))) <<< 16) ||| ((((bs.getD 59 0))) <<< 8) ||| (((bs.getD 60 0))) ]

def pack_bits_62 (v0 v1 v2 v3 v4 v5 v6 v7 : Nat) : List Nat :=
  [ u8 (((v0 >>> 54) &&& 0xff)),
    u8 (((v0 >>> 46) &&& 0xff)),
    u8 (((v0 >>> 38) &&& 0xff)),
    u8 (((v0 >>> 30) &&& 0xff)),
    u8 (((v0 >>> 22) &&& 0xff)),
    u8 (((v0 >>> 14) &&& 0xff)),
    u8 (((v0 >>> 6) &&& 0xff)),
    u8 (((((v0) &&& 0x3f) <<< 2) ||| ((v1 >>> 60) &&& 0x3))),
    u8 (((v1 >>> 52) &&& 0xff)),
    u8 (((v1 >>> 44) &&& 0xff)),
    u8 (((v1 >>> 36) &&& 0xff)),
    u8 (((v1 >>> 28) &&& 0xff)),
    u8 (((v1 >>> 20) &&& 0xff)),
    u8 (((v1 >>> 12) &&& 0xff)),
    u8 (((v1 >>> 4) &&& 0xff)),
    u8 (((((v1) &&& 0xf) <<< 4) ||| ((v2 >>> 58) &&& 0xf))),
    u8 (((v2 >>> 50) &&& 0xff)),
    u8 (((v2 >>> 42) &&& 0xff)),
    u8 (((v2 >>> 34) &&& 0xff)),
    u8 (((v2 >>> 26) &&& 0xff)),
    u8 (((v2 >>> 18) &&& 0xff)),
    u8 (((v2 >>> 10) &&& 0xff)),
    u8 (((v2 >>> 2) &&& 0xff)),
    u8 (((((v2) &&& 0x3) <<< 6) ||| ((v3 >>> 56) &&& 0x3f))),
    u8 (((v3 >>> 48) &&& 0xff)),
    u8 (((v3 >>> 40) &&& 0xff)),
    u8 (((v3 >>> 32) &&& 0xff)),
    u8 (((v3 >>> 24) &&& 0xff)),
    u8 (((v3 >>> 16) &&& 0xff)),
    u8 (((v3 >>> 8) &&& 0xff)),
    u8 (((v3) &&& 0xff)),
    u8 (((v4 >>> 54) &&& 0xff)),
    u8 (((v4 >>> 46) &&& 0xff)),
    u8 (((v4 >>> 38) &&& 0xff)),
    u8 (((v4 >>> 30) &&& 0xff)),
    u8 (((v4 >>> 22) &&& 0xff)),
    u8 (((v4 >>> 14) &&& 0xff)),
    u8 (((v4 >>> 6) &&& 0xff)),
    u8 (((((v4) &&& 0x3f) <<< 2) ||| ((v5 >>> 60) &&& 0x3))),
    u8 (((v5 >>> 52) &&& 0xff)),
    u8 (((v5 >>> 44) &&& 0xff)),
    u8 (((v5 >>> 36) &&& 0xff)),
    u8 (((v5 >>> 28) &&& 0xff)),
    u8 (((v5 >>> 20) &&& 0xff)),
    u8 (((v5 >>> 12) &&& 0xff)),
    u8 (((v5 >>> 4) &&& 0xff)),
    u8 (((((v5) &&& 0xf) <<< 4) ||| ((v6 >>> 58) &&& 0xf))),
    u8 (((v6 >>> 50) &&& 0xff)),
    u8 (((v6 >>> 42) &&& 0xff)),
    u8 (((v6 >>> 34) &&& 0xff)),
    u8 (((v6 >>> 26) &&& 0xff)),
    u8 (((v6 >>> 18) &&& 0xff)),
    u8 (((v6 >>> 10) &&& 0xff)),
    u8 (((v6 >>> 2) &&& 0xff)),
    u8 (((((v6) &&& 0x3) <<< 6) ||| ((v7 >>> 56) &&& 0x3f))),
    u8 (((v7 >>> 48) &&& 0xff)),
    u8 (((v7 >>> 40) &&& 0xff)),
    u8 (((v7 >>> 32) &&& 0xff)),
    u8 (((v7 >>> 24) &&& 0xff)),
    u8 (((v7 >>> 16) &&& 0xff)),
    u8 (((v7 >>> 8) &&& 0xff)),
    u8 (((v7) &&& 0xff)) ]

def unpack_bits_62 (bs : List Nat) : List Nat :=
  [ ((((bs.getD 0 0))) <<< 54) ||| ((((bs.getD 1 0))) <<< 46) ||| ((((bs.getD 2 0))) <<< 38) ||| ((((bs.getD 3 0))) <<< 30) ||| ((((bs.getD 4 0))) <<< 22) ||| ((((bs.getD 5 0))) <<< 14) ||| ((((bs.getD 6 0))) <<< 6) ||| ((((bs.getD 7 0) >>> 2) &&& 0x3f)),
    (((((bs.getD 7 0)) &&& 0x3)) <<< 60) ||| ((((bs.getD 8 0))) <<< 52) ||| ((((bs.getD 9 0))) <<< 44) ||| ((((bs.getD 10 0))) <<< 36) ||| ((((bs.getD 11 0))) <<< 28) ||| ((((bs.getD 12 0))) <<< 20) ||| ((((bs.getD 13 0))) <<< 12) ||| ((((bs.getD 14 0))) <<< 4) ||| ((((bs.getD 15 0) >>> 4) &&& 0xf)),
    (((((bs.getD 15 0)) &&& 0xf)) <<< 58) ||| ((((bs.getD 16 0))) <<< 50) ||| ((((bs.getD 17 0))) <<< 42) ||| ((((bs.getD 18 0))) <<< 34) ||| ((((bs.getD 19 0))) <<< 26) ||| ((((bs.getD 20 0))) <<< 18) ||| ((((bs.getD 21 0))) <<< 10) ||| ((((bs.getD 22 0))) <<< 2) ||| ((((bs.getD 23 0) >>> 6) &&& 0x3)),
    (((((bs.getD 23 0)) &&& 0x3f)) <<< 56) ||| ((((bs.getD 24 0))) <<< 48) ||| ((((bs.getD 25 0))) <<< 40) ||| ((((bs.getD 26 0))) <<< 32) ||| ((((bs.getD 27 0))) <<< 24) ||| ((((bs.getD 28 0))) <<< 16) ||| ((((bs.getD 29 0))) <<< 8) ||| (((bs.getD 30 0))),
    ((((bs.getD 31 0))) <<< 54) ||| ((((bs.getD 32 0))) <<< 46) ||| ((((bs.getD 33 0))) <<< 38) ||| ((((bs.getD 34 0))) <<< 30) ||| ((((bs.getD 35 0))) <<< 22) ||| ((((bs.getD 36 0))) <<< 14) ||| ((((bs.getD 37 0))) <<< 6) ||| ((((bs.getD 38 0) >>> 2) &&& 0x3f)),
    (((((bs.getD 38 0)) &&& 0x3)) <<< 60) ||| ((((bs.getD 39 0))) <<< 52) ||| ((((bs.getD 40 0))) <<< 44) ||| ((((bs.getD 41 0))) <<< 36) ||| ((((bs.getD 42 0))) <<< 28) ||| ((((bs.getD 43 0))) <<< 20) ||| ((((bs.getD 44 0))) <<< 12) ||| ((((bs.getD 45 0))) <<< 4) ||| ((((bs.getD 46 0) >>> 4) &&& 0xf)),
    (((((bs.getD 46 0)) &&& 0xf)) <<< 58) ||| ((((bs.getD 47 0))) <<< 50) ||| ((((bs.getD 48 0))) <<< 42) ||| ((((bs.getD 49 0))) <<< 34) ||| ((((bs.getD 50 0))) <<< 26) ||| ((((bs.getD 51 0))) <<< 18) ||| ((((bs.getD 52 0))) <<< 10) ||| ((((bs.getD 53 0))) <<< 2) ||| ((((bs.getD 54 0) >>> 6) &&& 0x3)),
    (((((bs.getD 54 0)) &&& 0x3f)) <<< 56) ||| ((((bs.getD 55 0))) <<< 48) ||| ((((bs.getD 56 0))) <<< 40) ||| ((((bs.getD 57 0))) <<< 32) ||| ((((bs.getD 58 0))) <<< 24) ||| ((((bs.getD 59 0))) <<< 16) ||| ((((bs.getD 60 0))) <<< 8) ||| (((bs.getD 61 0))) ]

def pack_bits_63 (v0 v1 v2 v3 v4 v5 v6 v7 : Nat) : List Nat :=
  [ u8 (((v0 >>> 55) &&& 0xff)),
    u8 (((v0 >>> 47) &&& 0xff)),
    u8 (((v0 >>> 39) &&& 0xff)),
    u8 (((v0 >>> 31) &&& 0xff)),
    u8 (((v0 >>> 23) &&& 0xff)),
    u8 (((v0 >>> 15) &&& 0xff)),
    u8 (((v0 >>> 7) &&& 0xff)),
    u8 (((((v0) &&& 0x7f) <<< 1) ||| ((v1 >>> 62) &&& 0x1))),
    u8 (((v1 >>> 54) &&& 0xff)),
    u8 (((v1 >>> 46) &&& 0xff)),
    u8 (((v1 >>> 38) &&& 0xff)),
    u8 (((v1 >>> 30) &&& 0xff)),
    u8 (((v1 >>> 22) &&& 0xff)),
    u8 (((v1 >>> 14) &&& 0xff)),
    u8 (((v1 >>> 6) &&& 0xff)),
    u8 (((((v1) &&& 0x3f) <<< 2) ||| ((v2 >>> 61) &&& 0x3))),
    u8 (((v2 >>> 53) &&& 0xff)),
    u8 (((v2 >>> 45) &&& 0xff)),
    u8 (((v2 >>> 37) &&& 0xff)),
    u8 (((v2 >>> 29) &&& 0xff)),
    u8 (((v2 >>> 21) &&& 0xff)),
    u8 (((v2 >>> 13) &&& 0xff)),
    u8 (((v2 >>> 5) &&& 0xff)),
    u8 (((((v2) &&& 0x1f) <<< 3) ||| ((v3 >>> 60) &&& 0x7))),
    u8 (((v3 >>> 52) &&& 0xff)),
    u8 (((v3 >>> 44) &&& 0xff)),
    u8 (((v3 >>> 36) &&& 0xff)),
    u8 (((v3 >>> 28) &&& 0xff)),
    u8 (((v3 >>> 20) &&& 0xff)),
    u8 (((v3 >>> 12) &&& 0xff)),
    u8 (((v3 >>> 4) &&& 0xff)),
    u8 (((((v3) &&& 0xf) <<< 4) ||| ((v4 >>> 59) &&& 0xf))),
    u8 (((v4 >>> 51) &&& 0xff)),
    u8 (((v4 >>> 43) &&& 0xff)),
    u8 (((v4 >>> 35) &&& 0xff)),
    u8 (((v4 >>> 27) &&& 0xff)),
    u8 (((v4 >>> 19) &&& 0xff)),
    u8 (((v4 >>> 11) &&& 0xff)),
    u8 (((v4 >>> 3) &&& 0xff)),
    u8 (((((v4) &&& 0x7) <<< 5) ||| ((v5 >>> 58) &&& 0x1f))),
    u8 (((v5 >>> 50) &&& 0xff)),
    u8 (((v5 >>> 42) &&& 0xff)),
    u8 (((v5 >>> 34) &&& 0xff)),
    u8 (((v5 >>> 26) &&& 0xff)),
    u8 (((v5 >>> 18) &&& 0xff)),
    u8 (((v5 >>> 10) &&& 0xff)),
    u8 (((v5 >>> 2) &&& 0xff)),
    u8 (((((v5) &&& 0x3) <<< 6) ||| ((v6 >>> 57) &&& 0x3f))),
    u8 (((v6 >>> 49) &&& 0xff)),
    u8 (((v6 >>> 41) &&& 0xff)),
    u8 (((v6 >>> 33) &&& 0xff)),
    u8 (((v6 >>> 25) &&& 0xff)),
    u8 (((v6 >>> 17) &&& 0xff)),
    u8 (((v6 >>> 9) &&& 0xff)),
    u8 (((v6 >>> 1) &&& 0xff)),
    u8 (((((v6) &&& 0x1) <<< 7) ||| ((v7 >>> 56) &&& 0x7f))),
    u8 (((v7 >>> 48) &&& 0xff)),
    u8 (((v7 >>> 40) &&& 0xff)),
    u8 (((v7 >>> 32) &&& 0xff)),
    u8 (((v7 >>> 24) &&& 0xff)),
    u8 (((v7 >>> 16) &&& 0xff)),
    u8 (((v7 >>> 8) &&& 0xff)),
    u8 (((v7) &&& 0xff)) ]

def unpack_bits_63 (bs : List Nat) : List Nat :=
  [ ((((bs.getD 0 0))) <<< 55) ||| ((((bs.getD 1 0))) <<< 47) ||| ((((bs.getD 2 0))) <<< 39) ||| ((((bs.getD 3 0))) <<< 31) ||| ((((bs.getD 4 0))) <<< 23) ||| ((((bs.getD 5 0))) <<< 15) ||| ((((bs.getD 6 0))) <<< 7) ||| ((((bs.getD 7 0) >>> 1) &&& 0x7f)),
    (((((bs.getD 7 0)) &&& 0x1)) <<< 62) ||| ((((bs.getD 8 0))) <<< 54) ||| ((((bs.getD 9 0))) <<< 46) ||| ((((bs.getD 10 0))) <<< 38) ||| ((((bs.getD 11 0))) <<< 30) ||| ((((bs.getD 12 0))) <<< 22) ||| ((((bs.getD 13 0))) <<< 14) ||| ((((bs.getD 14 0))) <<< 6) ||| ((((bs.getD 15 0) >>> 2) &&& 0x3f)),
    (((((bs.getD 15 0)) &&& 0x3)) <<< 61) ||| ((((bs.getD 16 0))) <<< 53) ||| ((((bs.getD 17 0))) <<< 45) ||| ((((bs.getD 18 0))) <<< 37) ||| ((((bs.getD 19 0))) <<< 29) ||| ((((bs.getD 20 0))) <<< 21) ||| ((((bs.getD 21 0))) <<< 13) ||| ((((bs.getD 22 0))) <<< 5) ||| ((((bs.getD 23 0) >>> 3) &&& 0x1f)),
    (((((bs.getD 23 0)) &&& 0x7)) <<< 60) ||| ((((bs.getD 24 0))) <<< 52) ||| ((((bs.getD 25 0))) <<< 44) ||| ((((bs.getD 26 0))) <<< 36) ||| ((((bs.getD 27 0))) <<< 28) ||| ((((bs.getD 28 0))) <<< 20) ||| ((((bs.getD 29 0))) <<< 12) ||| ((((bs.getD 30 0))) <<< 4) ||| ((((bs.getD 31 0) >>> 4) &&& 0xf)),
    (((((bs.getD 31 0)) &&& 0xf)) <<< 59) ||| ((((bs.getD 32 0))) <<< 51) ||| ((((bs.getD 33 0))) <<< 43) ||| ((((bs.getD 34 0))) <<< 35) ||| ((((bs.getD 35 0))) <<< 27) ||| ((((bs.getD 36 0))) <<< 19) ||| ((((bs.getD 37 0))) <<< 11) ||| ((((bs.getD 38 0))) <<< 3) ||| ((((bs.getD 39 0) >>> 5) &&& 0x7)),
    (((((bs.getD 39 0)) &&& 0x1f)) <<< 58) ||| ((((bs.getD 40 0))) <<< 50) ||| ((((bs.getD 41 0))) <<< 42) ||| ((((bs.getD 42 0))) <<< 34) ||| ((((bs.getD 43 0))) <<< 26) ||| ((((bs.getD 44 0))) <<< 18) ||| ((((bs.getD 45 0))) <<< 10) ||| ((((bs.getD 46 0))) <<< 2) ||| ((((bs.getD 47 0) >>> 6) &&& 0x3)),
    (((((bs.getD 47 0)) &&& 0x3f)) <<< 57) ||| ((((bs.getD 48 0))) <<< 49) ||| ((((bs.getD 49 0))) <<< 41) ||| ((((bs.getD 50 0))) <<< 33) ||| ((((bs.getD 51 0))) <<< 25) ||| ((((bs.getD 52 0))) <<< 17) ||| ((((bs.getD 53 0))) <<< 9) ||| ((((bs.getD 54 0))) <<< 1) ||| ((((bs.getD 55 0) >>> 7) &&& 0x1)),
    (((((bs.getD 55 0)) &&& 0x7f)) <<< 56) ||| ((((bs.getD 56 0))) <<< 48) ||| ((((bs.getD 57 0))) <<< 40) ||| ((((bs.getD 58 0))) <<< 32) ||| ((((bs.getD 59 0))) <<< 24) ||| ((((bs.getD 60 0))) <<< 16) ||| ((((bs.getD 61 0))) <<< 8) ||| (((bs.getD 62 0))) ]

theorem upb1_c0 (v0 v1 v2 v3 v4 v5 v6 v7 : Nat) (hv : v0 < 2 ^ 1) :
    (((u8 (((((v0) &&& 0x1) <<< 7) ||| (((v1) &&& 0x1) <<< 6) ||| (((v2) &&& 0x1) <<< 5) ||| (((v3) &&& 0x1) <<< 4) ||| (((v4) &&& 0x1) <<< 3) ||| (((v5) &&& 0x1) <<< 2) ||| (((v6) &&& 0x1) <<< 1) ||| ((v7) &&& 0x1)))) >>> 7) &&& 0x1) = v0 := by
  rw [show ((u8 (((((v0) &&& 0x1) <<< 7) ||| (((v1) &&& 0x1) <<< 6) ||| (((v2) &&& 0x1) <<< 5) ||| (((v3) &&& 0x1) <<< 4) ||| (((v4) &&& 0x1) <<< 3) ||| (((v5) &&& 0x1) <<< 2) ||| (((v6) &&& 0x1) <<< 1) ||| ((v7) &&& 0x1)))) >>> 7) &&& 0x1 = v0 from by
    simp (disch := omega) only [u8, Nat.lor_assoc, Nat.shiftLeft_eq,
      Nat.shiftRight_eq_div_pow, land_mask1, land_mask3, land_mask7, land_mask15,
      land_mask31, land_mask63, land_mask127, land_mask255, lor_mul_pow,
      lor_add_mul_pow]
    omega]

theorem upb1_c1 (v0 v1 v2 v3 v4 v5 v6 v7 : Nat) (hv : v1 < 2 ^ 1) :
    (((u8 (((((v0) &&& 0x1) <<< 7) ||| (((v1) &&& 0x1) <<< 6) ||| (((v2) &&& 0x1) <<< 5) ||| (((v3) &&& 0x1) <<< 4) ||| (((v4) &&& 0x1) <<< 3) ||| (((v5) &&& 0x1) <<< 2) ||| (((v6) &&& 0x1) <<< 1) ||| ((v7) &&& 0x1)))) >>> 6) &&& 0x1) = v1 := by
  rw [show ((u8 (((((v0) &&& 0x1) <<< 7) ||| (((v1) &&& 0x1) <<< 6) ||| (((v2) &&& 0x1) <<< 5) ||| (((v3) &&& 0x1) <<< 4) ||| (((v4) &&& 0x1) <<< 3) ||| (((v5) &&& 0x1) <<< 2) ||| (((v6) &&& 0x1) <<< 1) ||| ((v7) &&& 0x1)))) >>> 6) &&& 0x1 = v1 from by
    simp (disch := omega) only [u8, Nat.lor_assoc, Nat.shiftLeft_eq,
      Nat.shiftRight_eq_div_pow, land_mask1, land_mask3, land_mask7, land_mask15,
      land_mask31, land_mask63, land_mask127, land_mask255, lor_mul_pow,
      lor_add_mul_pow]
    omega]

theorem upb1_c2 (v0 v1 v2 v3 v4 v5 v6 v7 : Nat) (hv : v2 < 2 ^ 1) :
    (((u8 (((((v0) &&& 0x1) <<< 7) ||| (((v1) &&& 0x1) <<< 6) ||| (((v2) &&& 0x1) <<< 5) ||| (((v3) &&& 0x1) <<< 4) ||| (((v4) &&& 0x1) <<< 3) ||| (((v5) &&& 0x1) <<< 2) ||| (((v6) &&& 0x1) <<< 1) ||| ((v7) &&& 0x1)))) >>> 5) &&& 0x1) = v2 := by
  rw [show ((u8 (((((v0) &&& 0x1) <<< 7) ||| (((v1) &&& 0x1) <<< 6) ||| (((v2) &&& 0x1) <<< 5) ||| (((v3) &&& 0x1) <<< 4) ||| (((v4) &&& 0x1) <<< 3) ||| (((v5) &&& 0x1) <<< 2) ||| (((v6) &&& 0x1) <<< 1) ||| ((v7) &&& 0x1)))) >>> 5) &&& 0x1 = v2 from by
    simp (disch := omega) only [u8, Nat.lor_assoc, Nat.shiftLeft_eq,
      Nat.shiftRight_eq_div_pow, land_mask1, land_mask3, land_mask7, land_mask15,
      land_mask31, land_mask63, land_mask127, land_mask255, lor_mul_pow,
      lor_add_mul_pow]
    omega]

theorem upb1_c3 (v0 v1 v2 v3 v4 v5 v6 v7 : Nat) (hv : v3 < 2 ^ 1) :
    (((u8 (((((v0) &&& 0x1) <<< 7) ||| (((v1) &&& 0x1) <<< 6) ||| (((v2) &&& 0x1) <<< 5) ||| (((v3) &&& 0x1) <<< 4) ||| (((v4) &&& 0x1) <<< 3) ||| (((v5) &&& 0x1) <<< 2) ||| (((v6) &&& 0x1) <<< 1) ||| ((v7) &&& 0x1)))) >>> 4) &&& 0x1) = v3 := by
  rw [show ((u8 (((((v0) &&& 0x1) <<< 7) ||| (((v1) &&& 0x1) <<< 6) ||| (((v2) &&& 0x1) <<< 5) ||| (((v3) &&& 0x1) <<< 4) ||| (((v4) &&& 0x1) <<< 3) ||| (((v5) &&& 0x1) <<< 2) ||| (((v6) &&& 0x1) <<< 1) ||| ((v7) &&& 0x1)))) >>> 4) &&& 0x1 = v3 from by
    simp (disch := omega) only [u8, Nat.lor_assoc, Nat.shiftLeft_eq,
      Nat.shiftRight_eq_div_pow, land_mask1, land_mask3, land_mask7, land_mask15,
      land_mask31, land_mask63, land_mask127, land_mask255, lor_mul_pow,
      lor_add_mul_pow]
    omega]

theorem upb1_c4 (v0 v1 v2 v3 v4 v5 v6 v7 : Nat) (hv : v4 < 2 ^ 1) :
    (((u8 (((((v0) &&& 0x1) <<< 7) ||| (((v1) &&& 0x1) <<< 6) ||| (((v2) &&& 0x1) <<< 5) ||| (((v3) &&& 0x1) <<< 4) ||| (((v4) &&& 0x1) <<< 3) ||| (((v5) &&& 0x1) <<< 2) ||| (((v6) &&& 0x1) <<< 1) ||| ((v7) &&& 0x1)))) >>> 3) &&& 0x1) = v4 := by
  rw [show ((u8 (((((v0) &&& 0x1) <<< 7) ||| (((v1) &&& 0x1) <<< 6) ||| (((v2) &&& 0x1) <<< 5) ||| (((v3) &&& 0x1) <<< 4) ||| (((v4) &&& 0x1) <<< 3) ||| (((v5) &&& 0x1) <<< 2) ||| (((v6) &&& 0x1) <<< 1) ||| ((v7) &&& 0x1)))) >>> 3) &&& 0x1 = v4 from by
    simp (disch := omega) only [u8, Nat.lor_assoc, Nat.shiftLeft_eq,
      Nat.shiftRight_eq_div_pow, land_mask1, land_mask3, land_mask7, land_mask15,
      land_mask31, land_mask63, land_mask127, land_mask255, lor_mul_pow,
      lor_add_mul_pow]
    omega]

theorem upb1_c5 (v0 v1 v2 v3 v4 v5 v6 v7 : Nat) (hv : v5 < 2 ^ 1) :
    (((u8 (((((v0) &&& 0x1) <<< 7) ||| (((v1) &&& 0x1) <<< 6) ||| (((v2) &&& 0x1) <<< 5) ||| (((v3) &&& 0x1) <<< 4) ||| (((v4) &&& 0x1) <<< 3) ||| (((v5) &&& 0x1) <<< 2) ||| (((v6) &&& 0x1) <<< 1) ||| ((v7) &&& 0x1)))) >>> 2) &&& 0x1) = v5 := by
  rw [show ((u8 (((((v0) &&& 0x1) <<< 7) ||| (((v1) &&& 0x1) <<< 6) ||| (((v2) &&& 0x1) <<< 5) ||| (((v3) &&& 0x1) <<< 4) ||| (((v4) &&& 0x1) <<< 3) ||| (((v5) &&& 0x1) <<< 2) ||| (((v6) &&& 0x1) <<< 1) ||| ((v7) &&& 0x1)))) >>> 2) &&& 0x1 = v5 from by
    simp (disch := omega) only [u8, Nat.lor_assoc, Nat.shiftLeft_eq,
      Nat.shiftRight_eq_div_pow, land_mask1, land_mask3, land_mask7, land_mask15,
      land_mask31, land_mask63, land_mask127, land_mask255, lor_mul_pow,
      lor_add_mul_pow]
    omega]

theorem upb1_c6 (v0 v1 v2 v3 v4 v5 v6 v7 : Nat) (hv : v6 < 2 ^ 1) :
    (((u8 (((((v0) &&& 0x1) <<< 7) ||| (((v1) &&& 0x1) <<< 6) ||| (((v2) &&& 0x1) <<< 5) ||| (((v3) &&& 0x1) <<< 4) ||| (((v4) &&& 0x1) <<< 3) ||| (((v5) &&& 0x1) <<< 2) ||| (((v6) &&& 0x1) <<< 1) ||| ((v7) &&& 0x1)))) >>> 1) &&& 0x1) = v6 := by
  rw [show ((u8 (((((v0) &&& 0x1) <<< 7) ||| (((v1) &&& 0x1) <<< 6) ||| (((v2) &&& 0x1) <<< 5) ||| (((v3) &&& 0x1) <<< 4) ||| (((v4) &&& 0x1) <<< 3) ||| (((v5) &&& 0x1) <<< 2) ||| (((v6) &&& 0x1) <<< 1) ||| ((v7) &&& 0x1)))) >>> 1) &&& 0x1 = v6 from by
    simp (disch := omega) only [u8, Nat.lor_assoc, Nat.shiftLeft_eq,
      Nat.shiftRight_eq_div_pow, land_mask1, land_mask3, land_mask7, land_mask15,
      land_mask31, land_mask63, land_mask127, land_mask255, lor_mul_pow,
      lor_add_mul_pow]
    omega]

theorem upb1_c7 (v0 v1 v2 v3 v4 v5 v6 v7 : Nat) (hv : v7 < 2 ^ 1) :
    (((u8 (((((v0) &&& 0x1) <<< 7) ||| (((v1) &&& 0x1) <<< 6) ||| (((v2) &&& 0x1) <<< 5) ||| (((v3) &&& 0x1) <<< 4) ||| (((v4) &&& 0x1) <<< 3) ||| (((v5) &&& 0x1) <<< 2) ||| (((v6) &&& 0x1) <<< 1) ||| ((v7) &&& 0x1))))) &&& 0x1) = v7 := by
  rw [show ((u8 (((((v0) &&& 0x1) <<< 7) ||| (((v1) &&& 0x1) <<< 6) ||| (((v2) &&& 0x1) <<< 5) ||| (((v3) &&& 0x1) <<< 4) ||| (((v4) &&& 0x1) <<< 3) ||| (((v5) &&& 0x1) <<< 2) ||| (((v6) &&& 0x1) <<< 1) ||| ((v7) &&& 0x1))))) &&& 0x1 = v7 from by
    simp (disch := omega) only [u8, Nat.lor_assoc, Nat.shiftLeft_eq,
      Nat.shiftRight_eq_div_pow, land_mask1, land_mask3, land_mask7, land_mask15,
      land_mask31, land_mask63, land_mask127, land_mask255, lor_mul_pow,
      lor_add_mul_pow]
    omega]

theorem unpack_pack_bits_1 (v0 v1 v2 v3 v4 v5 v6 v7 : Nat)
    (h0 : v0 < 2 ^ 1) (h1 : v1 < 2 ^ 1) (h2 : v2 < 2 ^ 1) (h3 : v3 < 2 ^ 1) (h4 : v4 < 2 ^ 1) (h5 : v5 < 2 ^ 1) (h6 : v6 < 2 ^ 1) (h7 : v7 < 2 ^ 1) :
    unpack_bits_1 (pack_bits_1 v0 v1 v2 v3 v4 v5 v6 v7) =
      [v0, v1, v2, v3, v4, v5, v6, v7] := by
  have key : unpack_bits_1 (pack_bits_1 v0 v1 v2 v3 v4 v5 v6 v7) =
      [ (((u8 (((((v0) &&& 0x1) <<< 7) ||| (((v1) &&& 0x1) <<< 6) ||| (((v2) &&& 0x1) <<< 5) ||| (((v3) &&& 0x1) <<< 4) ||| (((v4) &&& 0x1) <<< 3) ||| (((v5) &&& 0x1) <<< 2) ||| (((v6) &&& 0x1) <<< 1) ||| ((v7) &&& 0x1)))) >>> 7) &&& 0x1),
        (((u8 (((((v0) &&& 0x1) <<< 7) ||| (((v1) &&& 0x1) <<< 6) ||| (((v2) &&& 0x1) <<< 5) ||| (((v3) &&& 0x1) <<< 4) ||| (((v4) &&& 0x1) <<< 3) ||| (((v5) &&& 0x1) <<< 2) ||| (((v6) &&& 0x1) <<< 1) ||| ((v7) &&& 0x1)))) >>> 6) &&& 0x1),
        (((u8 (((((v0) &&& 0x1) <<< 7) ||| (((v1) &&& 0x1) <<< 6) ||| (((v2) &&& 0x1) <<< 5) ||| (((v3) &&& 0x1) <<< 4) ||| (((v4) &&& 0x1) <<< 3) ||| (((v5) &&& 0x1) <<< 2) ||| (((v6) &&& 0x1) <<< 1) ||| ((v7) &&& 0x1)))) >>> 5) &&& 0x1),
        (((u8 (((((v0) &&& 0x1) <<< 7) ||| (((v1) &&& 0x1) <<< 6) ||| (((v2) &&& 0x1) <<< 5) ||| (((v3) &&& 0x1) <<< 4) ||| (((v4) &&& 0x1) <<< 3) ||| (((v5) &&& 0x1) <<< 2) ||| (((v6) &&& 0x1) <<< 1) ||| ((v7) &&& 0x1)))) >>> 4) &&& 0x1),
        (((u8 (((((v0) &&& 0x1) <<< 7) ||| (((v1) &&& 0x1) <<< 6) ||| (((v2) &&& 0x1) <<< 5) ||| (((v3) &&& 0x1) <<< 4) ||| (((v4) &&& 0x1) <<< 3) ||| (((v5) &&& 0x1) <<< 2) ||| (((v6) &&& 0x1) <<< 1) ||| ((v7) &&& 0x1)))) >>> 3) &&& 0x1),
        (((u8 (((((v0) &&& 0x1) <<< 7) ||| (((v1) &&& 0x1) <<< 6) ||| (((v2) &&& 0x1) <<< 5) ||| (((v3) &&& 0x1) <<< 4) ||| (((v4) &&& 0x1) <<< 3) ||| (((v5) &&& 0x1) <<< 2) ||| (((v6) &&& 0x1) <<< 1) ||| ((v7) &&& 0x1)))) >>> 2) &&& 0x1),
        (((u8 (((((v0) &&& 0x1) <<< 7) ||| (((v1) &&& 0x1) <<< 6) ||| (((v2) &&& 0x1) <<< 5) ||| (((v3) &&& 0x1) <<< 4) ||| (((v4) &&& 0x1) <<< 3) ||| (((v5) &&& 0x1) <<< 2) ||| (((v6) &&& 0x1) <<< 1) ||| ((v7) &&& 0x1)))) >>> 1) &&& 0x1),
        (((u8 (((((v0) &&& 0x1) <<< 7) ||| (((v1) &&& 0x1) <<< 6) ||| (((v2) &&& 0x1) <<< 5) ||| (((v3) &&& 0x1) <<< 4) ||| (((v4) &&& 0x1) <<< 3) ||| (((v5) &&& 0x1) <<< 2) ||| (((v6) &&& 0x1) <<< 1) ||| ((v7) &&& 0x1))))) &&& 0x1) ] := rfl
  rw [key]
  rw [upb1_c0 v0 v1 v2 v3 v4 v5 v6 v7 h0,
    upb1_c1 v0 v1 v2 v3 v4 v5 v6 v7 h1,
    upb1_c2 v0 v1 v2 v3 v4 v5 v6 v7 h2,
    upb1_c3 v0 v1 v2 v3 v4 v5 v6 v7 h3,
    upb1_c4 v0 v1 v2 v3 v4 v5 v6 v7 h4,
    upb1_c5 v0 v1 v2 v3 v4 v5 v6 v7 h5,
    upb1_c6 v0 v1 v2 v3 v4 v5 v6 v7 h6,
    upb1_c7 v0 v1 v2 v3 v4 v5 v6 v7 h7]

theorem upb2_c0 (v0 v1 v2 v3 : Nat) (hv : v0 < 2 ^ 2) :
    (((u8 (((((v0) &&& 0x3) <<< 6) ||| (((v1) &&& 0x3) <<< 4) ||| (((v2) &&& 0x3) <<< 2) ||| ((v3) &&& 0x3)))) >>> 6) &&& 0x3) = v0 := by
  rw [show ((u8 (((((v0) &&& 0x3) <<< 6) ||| (((v1) &&& 0x3) <<< 4) ||| (((v2) &&& 0x3) <<< 2) ||| ((v3) &&& 0x3)))) >>> 6) &&& 0x3 = v0 from by
    simp (disch := omega) only [u8, Nat.lor_assoc, Nat.shiftLeft_eq,
      Nat.shiftRight_eq_div_pow, land_mask1, land_mask3, land_mask7, land_mask15,
      land_mask31, land_mask63, land_mask127, land_mask255, lor_mul_pow,
      lor_add_mul_pow]
    omega]

theorem upb2_c1 (v0 v1 v2 v3 : Nat) (hv : v1 < 2 ^ 2) :
    (((u8 (((((v0) &&& 0x3) <<< 6) ||| (((v1) &&& 0x3) <<< 4) ||| (((v2) &&& 0x3) <<< 2) ||| ((v3) &&& 0x3)))) >>> 4) &&& 0x3) = v1 := by
  rw [show ((u8 (((((v0) &&& 0x3) <<< 6) ||| (((v1) &&& 0x3) <<< 4) ||| (((v2) &&& 0x3) <<< 2) ||| ((v3) &&& 0x3)))) >>> 4) &&& 0x3 = v1 from by
    simp (disch := omega) only [u8, Nat.lor_assoc, Nat.shiftLeft_eq,
      Nat.shiftRight_eq_div_pow, land_mask1, land_mask3, land_mask7, land_mask15,
      land_mask31, land_mask63, land_mask127, land_mask255, lor_mul_pow,
      lor_add_mul_pow]
    omega]

theorem upb2_c2 (v0 v1 v2 v3 : Nat) (hv : v2 < 2 ^ 2) :
    (((u8 (((((v0) &&& 0x3) <<< 6) ||| (((v1) &&& 0x3) <<< 4) ||| (((v2) &&& 0x3) <<< 2) ||| ((v3) &&& 0x3)))) >>> 2) &&& 0x3) = v2 := by
  rw [show ((u8 (((((v0) &&& 0x3) <<< 6) ||| (((v1) &&& 0x3) <<< 4) ||| (((v2) &&& 0x3) <<< 2) ||| ((v3) &&& 0x3)))) >>> 2) &&& 0x3 = v2 from by
    simp (disch := omega) only [u8, Nat.lor_assoc, Nat.shiftLeft_eq,
      Nat.shiftRight_eq_div_pow, land_mask1, land_mask3, land_mask7, land_mask15,
      land_mask31, land_mask63, land_mask127, land_mask255, lor_mul_pow,
      lor_add_mul_pow]
    omega]

theorem upb2_c3 (v0 v1 v2 v3 : Nat) (hv : v3 < 2 ^ 2) :
    (((u8 (((((v0) &&& 0x3) <<< 6) ||| (((v1) &&& 0x3) <<< 4) ||| (((v2) &&& 0x3) <<< 2) ||| ((v3) &&& 0x3))))) &&& 0x3) = v3 := by
  rw [show ((u8 (((((v0) &&& 0x3) <<< 6) ||| (((v1) &&& 0x3) <<< 4) ||| (((v2) &&& 0x3) <<< 2) ||| ((v3) &&& 0x3))))) &&& 0x3 = v3 from by
    simp (disch := omega) only [u8, Nat.lor_assoc, Nat.shiftLeft_eq,
      Nat.shiftRight_eq_div_pow, land_mask1, land_mask3, land_mask7, land_mask15,
      land_mask31, land_mask63, land_mask127, land_mask255, lor_mul_pow,
      lor_add_mul_pow]
    omega]

theorem upb2_c4 (v4 v5 v6 v7 : Nat) (hv : v4 < 2 ^ 2) :
    (((u8 (((((v4) &&& 0x3) <<< 6) ||| (((v5) &&& 0x3) <<< 4) ||| (((v6) &&& 0x3) <<< 2) ||| ((v7) &&& 0x3)))) >>> 6) &&& 0x3) = v4 := by
  rw [show ((u8 (((((v4) &&& 0x3) <<< 6) ||| (((v5) &&& 0x3) <<< 4) ||| (((v6) &&& 0x3) <<< 2) ||| ((v7) &&& 0x3)))) >>> 6) &&& 0x3 = v4 from by
    simp (disch := omega) only [u8, Nat.lor_assoc, Nat.shiftLeft_eq,
      Nat.shiftRight_eq_div_pow, land_mask1, land_mask3, land_mask7, land_mask15,
      land_mask31, land_mask63, land_mask127, land_mask255, lor_mul_pow,
      lor_add_mul_pow]
    omega]

theorem upb2_c5 (v4 v5 v6 v7 : Nat) (hv : v5 < 2 ^ 2) :
    (((u8 (((((v4) &&& 0x3) <<< 6) ||| (((v5) &&& 0x3) <<< 4) ||| (((v6) &&& 0x3) <<< 2) ||| ((v7) &&& 0x3)))) >>> 4) &&& 0x3) = v5 := by
  rw [show ((u8 (((((v4) &&& 0x3) <<< 6) ||| (((v5) &&& 0x3) <<< 4) ||| (((v6) &&& 0x3) <<< 2) ||| ((v7) &&& 0x3)))) >>> 4) &&& 0x3 = v5 from by
    simp (disch := omega) only [u8, Nat.lor_assoc, Nat.shiftLeft_eq,
      Nat.shiftRight_eq_div_pow, land_mask1, land_mask3, land_mask7, land_mask15,
      land_mask31, land_mask63, land_mask127, land_mask255, lor_mul_pow,
      lor_add_mul_pow]
    omega]

theorem upb2_c6 (v4 v5 v6 v7 : Nat) (hv : v6 < 2 ^ 2) :
    (((u8 (((((v4) &&& 0x3) <<< 6) ||| (((v5) &&& 0x3) <<< 4) ||| (((v6) &&& 0x3) <<< 2) ||| ((v7) &&& 0x3)))) >>> 2) &&& 0x3) = v6 := by
  rw [show ((u8 (((((v4) &&& 0x3) <<< 6) ||| (((v5) &&& 0x3) <<< 4) ||| (((v6) &&& 0x3) <<< 2) ||| ((v7) &&& 0x3)))) >>> 2) &&& 0x3 = v6 from by
    simp (disch := omega) only [u8, Nat.lor_assoc, Nat.shiftLeft_eq,
      Nat.shiftRight_eq_div_pow, land_mask1, land_mask3, land_mask7, land_mask15,
      land_mask31, land_mask63, land_mask127, land_mask255, lor_mul_pow,
      lor_add_mul_pow]
    omega]

theorem upb2_c7 (v4 v5 v6 v7 : Nat) (hv : v7 < 2 ^ 2) :
    (((u8 (((((v4) &&& 0x3) <<< 6) ||| (((v5) &&& 0x3) <<< 4) ||| (((v6) &&& 0x3) <<< 2) ||| ((v7) &&& 0x3))))) &&& 0x3) = v7 := by
  rw [show ((u8 (((((v4) &&& 0x3) <<< 6) ||| (((v5) &&& 0x3) <<< 4) ||| (((v6) &&& 0x3) <<< 2) ||| ((v7) &&& 0x3))))) &&& 0x3 = v7 from by
    simp (disch := omega) only [u8, Nat.lor_assoc, Nat.shiftLeft_eq,
      Nat.shiftRight_eq_div_pow, land_mask1, land_mask3, land_mask7, land_mask15,
      land_mask31, land_mask63, land_mask127, land_mask255, lor_mul_pow,
      lor_add_mul_pow]
    omega]

theorem unpack_pack_bits_2 (v0 v1 v2 v3 v4 v5 v6 v7 : Nat)
    (h0 : v0 < 2 ^ 2) (h1 : v1 < 2 ^ 2) (h2 : v2 < 2 ^ 2) (h3 : v3 < 2 ^ 2) (h4 : v4 < 2 ^ 2) (h5 : v5 < 2 ^ 2) (h6 : v6 < 2 ^ 2) (h7 : v7 < 2 ^ 2) :
    unpack_bits_2 (pack_bits_2 v0 v1 v2 v3 v4 v5 v6 v7) =
      [v0, v1, v2, v3, v4, v5, v6, v7] := by
  have key : unpack_bits_2 (pack_bits_2 v0 v1 v2 v3 v4 v5 v6 v7) =
      [ (((u8 (((((v0) &&& 0x3) <<< 6) ||| (((v1) &&& 0x3) <<< 4) ||| (((v2) &&& 0x3) <<< 2) ||| ((v3) &&& 0x3)))) >>> 6) &&& 0x3),
        (((u8 (((((v0) &&& 0x3) <<< 6) ||| (((v1) &&& 0x3) <<< 4) ||| (((v2) &&& 0x3) <<< 2) ||| ((v3) &&& 0x3)))) >>> 4) &&& 0x3),
        (((u8 (((((v0) &&& 0x3) <<< 6) ||| (((v1) &&& 0x3) <<< 4) ||| (((v2) &&& 0x3) <<< 2) ||| ((v3) &&& 0x3)))) >>> 2) &&& 0x3),
        (((u8 (((((v0) &&& 0x3) <<< 6) ||| (((v1) &&& 0x3) <<< 4) ||| (((v2) &&& 0x3) <<< 2) ||| ((v3) &&& 0x3))))) &&& 0x3),
        (((u8 (((((v4) &&& 0x3) <<< 6) ||| (((v5) &&& 0x3) <<< 4) ||| (((v6) &&& 0x3) <<< 2) ||| ((v7) &&& 0x3)))) >>> 6) &&& 0x3),
        (((u8 (((((v4) &&& 0x3) <<< 6) ||| (((v5) &&& 0x3) <<< 4) ||| (((v6) &&& 0x3) <<< 2) ||| ((v7) &&& 0x3)))) >>> 4) &&& 0x3),
        (((u8 (((((v4) &&& 0x3) <<< 6) ||| (((v5) &&& 0x3) <<< 4) ||| (((v6) &&& 0x3) <<< 2) ||| ((v7) &&& 0x3)))) >>> 2) &&& 0x3),
        (((u8 (((((v4) &&& 0x3) <<< 6) ||| (((v5) &&& 0x3) <<< 4) ||| (((v6) &&& 0x3) <<< 2) ||| ((v7) &&& 0x3))))) &&& 0x3) ] := rfl
  rw [key]
  rw [upb2_c0 v0 v1 v2 v3 h0,
    upb2_c1 v0 v1 v2 v3 h1,
    upb2_c2 v0 v1 v2 v3 h2,
    upb2_c3 v0 v1 v2 v3 h3,
    upb2_c4 v4 v5 v6 v7 h4,
    upb2_c5 v4 v5 v6 v7 h5,
    upb2_c6 v4 v5 v6 v7 h6,
    upb2_c7 v4 v5 v6 v7 h7]

theorem upb3_c0 (v0 v1 v2 : Nat) (hv : v0 < 2 ^ 3) :
    (((u8 (((((v0) &&& 0x7) <<< 5) ||| (((v1) &&& 0x7) <<< 2) ||| ((v2 >>> 1) &&& 0x3)))) >>> 5) &&& 0x7) = v0 := by
  rw [show ((u8 (((((v0) &&& 0x7) <<< 5) ||| (((v1) &&& 0x7) <<< 2) ||| ((v2 >>> 1) &&& 0x3)))) >>> 5) &&& 0x7 = v0 from by
    simp (disch := omega) only [u8, Nat.lor_assoc, Nat.shiftLeft_eq,
      Nat.shiftRight_eq_div_pow, land_mask1, land_mask3, land_mask7, land_mask15,
      land_mask31, land_mask63, land_mask127, land_mask255, lor_mul_pow,
      lor_add_mul_pow]
    omega]

theorem upb3_c1 (v0 v1 v2 : Nat) (hv : v1 < 2 ^ 3) :
    (((u8 (((((v0) &&& 0x7) <<< 5) ||| (((v1) &&& 0x7) <<< 2) ||| ((v2 >>> 1) &&& 0x3)))) >>> 2) &&& 0x7) = v1 := by
  rw [show ((u8 (((((v0) &&& 0x7) <<< 5) ||| (((v1) &&& 0x7) <<< 2) ||| ((v2 >>> 1) &&& 0x3)))) >>> 2) &&& 0x7 = v1 from by
    simp (disch := omega) only [u8, Nat.lor_assoc, Nat.shiftLeft_eq,
      Nat.shiftRight_eq_div_pow, land_mask1, land_mask3, land_mask7, land_mask15,
      land_mask31, land_mask63, land_mask127, land_mask255, lor_mul_pow,
      lor_add_mul_pow]
    omega]

theorem upb3_c2 (v0 v1 v2 v3 v4 v5 : Nat) (hv : v2 < 2 ^ 3) :
    (((((u8 (((((v0) &&& 0x7) <<< 5) ||| (((v1) &&& 0x7) <<< 2) ||| ((v2 >>> 1) &&& 0x3))))) &&& 0x3)) <<< 1) ||| ((((u8 (((((v2) &&& 0x1) <<< 7) ||| (((v3) &&& 0x7) <<< 4) ||| (((v4) &&& 0x7) <<< 1) ||| ((v5 >>> 2) &&& 0x1)))) >>> 7) &&& 0x1)) = v2 := by
  rw [show (((((u8 (((((v0) &&& 0x7) <<< 5) ||| (((v1) &&& 0x7) <<< 2) ||| ((v2 >>> 1) &&& 0x3))))) &&& 0x3)) <<< 1) = v2 / 2 ^ 1 * 2 ^ 1 from by
    simp (disch := omega) only [u8, Nat.lor_assoc, Nat.shiftLeft_eq,
      Nat.shiftRight_eq_div_pow, land_mask1, land_mask3, land_mask7, land_mask15,
      land_mask31, land_mask63, land_mask127, land_mask255, lor_mul_pow,
      lor_add_mul_pow]
    omega]
  rw [show v2 / 2 ^ 1 * 2 ^ 1 ||| ((((u8 (((((v2) &&& 0x1) <<< 7) ||| (((v3) &&& 0x7) <<< 4) ||| (((v4) &&& 0x7) <<< 1) ||| ((v5 >>> 2) &&& 0x1)))) >>> 7) &&& 0x1)) = v2 from by
    have hb : ((((u8 (((((v2) &&& 0x1) <<< 7) ||| (((v3) &&& 0x7) <<< 4) ||| (((v4) &&& 0x7) <<< 1) ||| ((v5 >>> 2) &&& 0x1)))) >>> 7) &&& 0x1)) = v2 % 2 ^ 1 := by
      simp (disch := omega) only [u8, Nat.lor_assoc, Nat.shiftLeft_eq,
      Nat.shiftRight_eq_div_pow, land_mask1, land_mask3, land_mask7, land_mask15,
      land_mask31, land_mask63, land_mask127, land_mask255, lor_mul_pow,
      lor_add_mul_pow]
      omega
    have hs : v2 / 2 ^ 1 * 2 ^ 1 ||| v2 % 2 ^ 1 = v2 / 2 ^ 1 * 2 ^ 1 + v2 % 2 ^ 1 :=
      lor_eq_add _ _ 1 (by omega) (by omega)
    rw [hb, hs]
    omega]

theorem upb3_c3 (v2 v3 v4 v5 : Nat) (hv : v3 < 2 ^ 3) :
    (((u8 (((((v2) &&& 0x1) <<< 7) ||| (((v3) &&& 0x7) <<< 4) ||| (((v4) &&& 0x7) <<< 1) ||| ((v5 >>> 2) &&& 0x1)))) >>> 4) &&& 0x7) = v3 := by
  rw [show ((u8 (((((v2) &&& 0x1) <<< 7) ||| (((v3) &&& 0x7) <<< 4) ||| (((v4) &&& 0x7) <<< 1) ||| ((v5 >>> 2) &&& 0x1)))) >>> 4) &&& 0x7 = v3 from by
    simp (disch := omega) only [u8, Nat.lor_assoc, Nat.shiftLeft_eq,
      Nat.shiftRight_eq_div_pow, land_mask1, land_mask3, land_mask7, land_mask15,
      land_mask31, land_mask63, land_mask127, land_mask255, lor_mul_pow,
      lor_add_mul_pow]
    omega]

theorem upb3_c4 (v2 v3 v4 v5 : Nat) (hv : v4 < 2 ^ 3) :
    (((u8 (((((v2) &&& 0x1) <<< 7) ||| (((v3) &&& 0x7) <<< 4) ||| (((v4) &&& 0x7) <<< 1) ||| ((v5 >>> 2) &&& 0x1)))) >>> 1) &&& 0x7) = v4 := by
  rw [show ((u8 (((((v2) &&& 0x1) <<< 7) ||| (((v3) &&& 0x7) <<< 4) ||| (((v4) &&& 0x7) <<< 1) ||| ((v5 >>> 2) &&& 0x1)))) >>> 1) &&& 0x7 = v4 from by
    simp (disch := omega) only [u8, Nat.lor_assoc, Nat.shiftLeft_eq,
      Nat.shiftRight_eq_div_pow, land_mask1, land_mask3, land_mask7, land_mask15,
      land_mask31, land_mask63, land_mask127, land_mask255, lor_mul_pow,
      lor_add_mul_pow]
    omega]

theorem upb3_c5 (v2 v3 v4 v5 v6 v7 : Nat) (hv : v5 < 2 ^ 3) :
    (((((u8 (((((v2) &&& 0x1) <<< 7) ||| (((v3) &&& 0x7) <<< 4) ||| (((v4) &&& 0x7) <<< 1) ||| ((v5 >>> 2) &&& 0x1))))) &&& 0x1)) <<< 2) ||| ((((u8 (((((v5) &&& 0x3) <<< 6) ||| (((v6) &&& 0x7) <<< 3) ||| ((v7) &&& 0x7)))) >>> 6) &&& 0x3)) = v5 := by
  rw [show (((((u8 (((((v2) &&& 0x1) <<< 7) ||| (((v3) &&& 0x7) <<< 4) ||| (((v4) &&& 0x7) <<< 1) ||| ((v5 >>> 2) &&& 0x1))))) &&& 0x1)) <<< 2) = v5 / 2 ^ 2 * 2 ^ 2 from by
    simp (disch := omega) only [u8, Nat.lor_assoc, Nat.shiftLeft_eq,
      Nat.shiftRight_eq_div_pow, land_mask1, land_mask3, land_mask7, land_mask15,
      land_mask31, land_mask63, land_mask127, land_mask255, lor_mul_pow,
      lor_add_mul_pow]
    omega]
  rw [show v5 / 2 ^ 2 * 2 ^ 2 ||| ((((u8 (((((v5) &&& 0x3) <<< 6) ||| (((v6) &&& 0x7) <<< 3) ||| ((v7) &&& 0x7)))) >>> 6) &&& 0x3)) = v5 from by
    have hb : ((((u8 (((((v5) &&& 0x3) <<< 6) ||| (((v6) &&& 0x7) <<< 3) ||| ((v7) &&& 0x7)))) >>> 6) &&& 0x3)) = v5 % 2 ^ 2 := by
      simp (disch := omega) only [u8, Nat.lor_assoc, Nat.shiftLeft_eq,
      Nat.shiftRight_eq_div_pow, land_mask1, land_mask3, land_mask7, land_mask15,
      land_mask31, land_mask63, land_mask127, land_mask255, lor_mul_pow,
      lor_add_mul_pow]
      omega
    have hs : v5 / 2 ^ 2 * 2 ^ 2 ||| v5 % 2 ^ 2 = v5 / 2 ^ 2 * 2 ^ 2 + v5 % 2 ^ 2 :=
      lor_eq_add _ _ 2 (by omega) (by omega)
    rw [hb, hs]
    omega]

theorem upb3_c6 (v5 v6 v7 : Nat) (hv : v6 < 2 ^ 3) :
    (((u8 (((((v5) &&& 0x3) <<< 6) ||| (((v6) &&& 0x7) <<< 3) ||| ((v7) &&& 0x7)))) >>> 3) &&& 0x7) = v6 := by
  rw [show ((u8 (((((v5) &&& 0x3) <<< 6) ||| (((v6) &&& 0x7) <<< 3) ||| ((v7) &&& 0x7)))) >>> 3) &&& 0x7 = v6 from by
    simp (disch := omega) only [u8, Nat.lor_assoc, Nat.shiftLeft_eq,
      Nat.shiftRight_eq_div_pow, land_mask1, land_mask3, land_mask7, land_mask15,
      land_mask31, land_mask63, land_mask127, land_mask255, lor_mul_pow,
      lor_add_mul_pow]
    omega]

theorem upb3_c7 (v5 v6 v7 : Nat) (hv : v7 < 2 ^ 3) :
    (((u8 (((((v5) &&& 0x3) <<< 6) ||| (((v6) &&& 0x7) <<< 3) ||| ((v7) &&& 0x7))))) &&& 0x7) = v7 := by
  rw [show ((u8 (((((v5) &&& 0x3) <<< 6) ||| (((v6) &&& 0x7) <<< 3) ||| ((v7) &&& 0x7))))) &&& 0x7 = v7 from by
    simp (disch := omega) only [u8, Nat.lor_assoc, Nat.shiftLeft_eq,
      Nat.shiftRight_eq_div_pow, land_mask1, land_mask3, land_mask7, land_mask15,
      land_mask31, land_mask63, land_mask127, land_mask255, lor_mul_pow,
      lor_add_mul_pow]
    omega]

theorem unpack_pack_bits_3 (v0 v1 v2 v3 v4 v5 v6 v7 : Nat)
    (h0 : v0 < 2 ^ 3) (h1 : v1 < 2 ^ 3) (h2 : v2 < 2 ^ 3) (h3 : v3 < 2 ^ 3) (h4 : v4 < 2 ^ 3) (h5 : v5 < 2 ^ 3) (h6 : v6 < 2 ^ 3) (h7 : v7 < 2 ^ 3) :
    unpack_bits_3 (pack_bits_3 v0 v1 v2 v3 v4 v5 v6 v7) =
      [v0, v1, v2, v3, v4, v5, v6, v7] := by
  have key : unpack_bits_3 (pack_bits_3 v0 v1 v2 v3 v4 v5 v6 v7) =
      [ (((u8 (((((v0) &&& 0x7) <<< 5) ||| (((v1) &&& 0x7) <<< 2) ||| ((v2 >>> 1) &&& 0x3)))) >>> 5) &&& 0x7),
        (((u8 (((((v0) &&& 0x7) <<< 5) ||| (((v1) &&& 0x7) <<< 2) ||| ((v2 >>> 1) &&& 0x3)))) >>> 2) &&& 0x7),
        (((((u8 (((((v0) &&& 0x7) <<< 5) ||| (((v1) &&& 0x7) <<< 2) ||| ((v2 >>> 1) &&& 0x3))))) &&& 0x3)) <<< 1) ||| ((((u8 (((((v2) &&& 0x1) <<< 7) ||| (((v3) &&& 0x7) <<< 4) ||| (((v4) &&& 0x7) <<< 1) ||| ((v5 >>> 2) &&& 0x1)))) >>> 7) &&& 0x1)),
        (((u8 (((((v2) &&& 0x1) <<< 7) ||| (((v3) &&& 0x7) <<< 4) ||| (((v4) &&& 0x7) <<< 1) ||| ((v5 >>> 2) &&& 0x1)))) >>> 4) &&& 0x7),
        (((u8 (((((v2) &&& 0x1) <<< 7) ||| (((v3) &&& 0x7) <<< 4) ||| (((v4) &&& 0x7) <<< 1) ||| ((v5 >>> 2) &&& 0x1)))) >>> 1) &&& 0x7),
        (((((u8 (((((v2) &&& 0x1) <<< 7) ||| (((v3) &&& 0x7) <<< 4) ||| (((v4) &&& 0x7) <<< 1) ||| ((v5 >>> 2) &&& 0x1))))) &&& 0x1)) <<< 2) ||| ((((u8 (((((v5) &&& 0x3) <<< 6) ||| (((v6) &&& 0x7) <<< 3) ||| ((v7) &&& 0x7)))) >>> 6) &&& 0x3)),
        (((u8 (((((v5) &&& 0x3) <<< 6) ||| (((v6) &&& 0x7) <<< 3) ||| ((v7) &&& 0x7)))) >>> 3) &&& 0x7),
        (((u8 (((((v5) &&& 0x3) <<< 6) ||| (((v6) &&& 0x7) <<< 3) ||| ((v7) &&& 0x7))))) &&& 0x7) ] := rfl
  rw [key]
  rw [upb3_c0 v0 v1 v2 h0,
    upb3_c1 v0 v1 v2 h1,
    upb3_c2 v0 v1 v2 v3 v4 v5 h2,
    upb3_c3 v2 v3 v4 v5 h3,
    upb3_c4 v2 v3 v4 v5 h4,
    upb3_c5 v2 v3 v4 v5 v6 v7 h5,
    upb3_c6 v5 v6 v7 h6,
    upb3_c7 v5 v6 v7 h7]

theorem upb4_c0 (v0 v1 : Nat) (hv : v0 < 2 ^ 4) :
    (((u8 (((((v0) &&& 0xf) <<< 4) ||| ((v1) &&& 0xf)))) >>> 4) &&& 0xf) = v0 := by
  rw [show ((u8 (((((v0) &&& 0xf) <<< 4) ||| ((v1) &&& 0xf)))) >>> 4) &&& 0xf = v0 from by
    simp (disch := omega) only [u8, Nat.lor_assoc, Nat.shiftLeft_eq,
      Nat.shiftRight_eq_div_pow, land_mask1, land_mask3, land_mask7, land_mask15,
      land_mask31, land_mask63, land_mask127, land_mask255, lor_mul_pow,
      lor_add_mul_pow]
    omega]

theorem upb4_c1 (v0 v1 : Nat) (hv : v1 < 2 ^ 4) :
    (((u8 (((((v0) &&& 0xf) <<< 4) ||| ((v1) &&& 0xf))))) &&& 0xf) = v1 := by
  rw [show ((u8 (((((v0) &&& 0xf) <<< 4) ||| ((v1) &&& 0xf))))) &&& 0xf = v1 from by
    simp (disch := omega) only [u8, Nat.lor_assoc, Nat.shiftLeft_eq,
      Nat.shiftRight_eq_div_pow, land_mask1, land_mask3, land_mask7, land_mask15,
      land_mask31, land_mask63, land_mask127, land_mask255, lor_mul_pow,
      lor_add_mul_pow]
    omega]

theorem upb4_c2 (v2 v3 : Nat) (hv : v2 < 2 ^ 4) :
    (((u8 (((((v2) &&& 0xf) <<< 4) ||| ((v3) &&& 0xf)))) >>> 4) &&& 0xf) = v2 := by
  rw [show ((u8 (((((v2) &&& 0xf) <<< 4) ||| ((v3) &&& 0xf)))) >>> 4) &&& 0xf = v2 from by
    simp (disch := omega) only [u8, Nat.lor_assoc, Nat.shiftLeft_eq,
      Nat.shiftRight_eq_div_pow, land_mask1, land_mask3, land_mask7, land_mask15,
      land_mask31, land_mask63, land_mask127, land_mask255, lor_mul_pow,
      lor_add_mul_pow]
    omega]

theorem upb4_c3 (v2 v3 : Nat) (hv : v3 < 2 ^ 4) :
    (((u8 (((((v2) &&& 0xf) <<< 4) ||| ((v3) &&& 0xf))))) &&& 0xf) = v3 := by
  rw [show ((u8 (((((v2) &&& 0xf) <<< 4) ||| ((v3) &&& 0xf))))) &&& 0xf = v3 from by
    simp (disch := omega) only [u8, Nat.lor_assoc, Nat.shiftLeft_eq,
      Nat.shiftRight_eq_div_pow, land_mask1, land_mask3, land_mask7, land_mask15,
      land_mask31, land_mask63, land_mask127, land_mask255, lor_mul_pow,
      lor_add_mul_pow]
    omega]

theorem upb4_c4 (v4 v5 : Nat) (hv : v4 < 2 ^ 4) :
    (((u8 (((((v4) &&& 0xf) <<< 4) ||| ((v5) &&& 0xf)))) >>> 4) &&& 0xf) = v4 := by
  rw [show ((u8 (((((v4) &&& 0xf) <<< 4) ||| ((v5) &&& 0xf)))) >>> 4) &&& 0xf = v4 from by
    simp (disch := omega) only [u8, Nat.lor_assoc, Nat.shiftLeft_eq,
      Nat.shiftRight_eq_div_pow, land_mask1, land_mask3, land_mask7, land_mask15,
      land_mask31, land_mask63, land_mask127, land_mask255, lor_mul_pow,
      lor_add_mul_pow]
    omega]

theorem upb4_c5 (v4 v5 : Nat) (hv : v5 < 2 ^ 4) :
    (((u8 (((((v4) &&& 0xf) <<< 4) ||| ((v5) &&& 0xf))))) &&& 0xf) = v5 := by
  rw [show ((u8 (((((v4) &&& 0xf) <<< 4) ||| ((v5) &&& 0xf))))) &&& 0xf = v5 from by
    simp (disch := omega) only [u8, Nat.lor_assoc, Nat.shiftLeft_eq,
      Nat.shiftRight_eq_div_pow, land_mask1, land_mask3, land_mask7, land_mask15,
      land_mask31, land_mask63, land_mask127, land_mask255, lor_mul_pow,
      lor_add_mul_pow]
    omega]

theorem upb4_c6 (v6 v7 : Nat) (hv : v6 < 2 ^ 4) :
    (((u8 (((((v6) &&& 0xf) <<< 4) ||| ((v7) &&& 0xf)))) >>> 4) &&& 0xf) = v6 := by
  rw [show ((u8 (((((v6) &&& 0xf) <<< 4) ||| ((v7) &&& 0xf)))) >>> 4) &&& 0xf = v6 from by
    simp (disch := omega) only [u8, Nat.lor_assoc, Nat.shiftLeft_eq,
      Nat.shiftRight_eq_div_pow, land_mask1, land_mask3, land_mask7, land_mask15,
      land_mask31, land_mask63, land_mask127, land_mask255, lor_mul_pow,
      lor_add_mul_pow]
    omega]

theorem upb4_c7 (v6 v7 : Nat) (hv : v7 < 2 ^ 4) :
    (((u8 (((((v6) &&& 0xf) <<< 4) ||| ((v7) &&& 0xf))))) &&& 0xf) = v7 := by
  rw [show ((u8 (((((v6) &&& 0xf) <<< 4) ||| ((v7) &&& 0xf))))) &&& 0xf = v7 from by
    simp (disch := omega) only [u8, Nat.lor_assoc, Nat.shiftLeft_eq,
      Nat.shiftRight_eq_div_pow, land_mask1, land_mask3, land_mask7, land_mask15,
      land_mask31, land_mask63, land_mask127, land_mask255, lor_mul_pow,
      lor_add_mul_pow]
    omega]

theorem unpack_pack_bits_4 (v0 v1 v2 v3 v4 v5 v6 v7 : Nat)
    (h0 : v0 < 2 ^ 4) (h1 : v1 < 2 ^ 4) (h2 : v2 < 2 ^ 4) (h3 : v3 < 2 ^ 4) (h4 : v4 < 2 ^ 4) (h5 : v5 < 2 ^ 4) (h6 : v6 < 2 ^ 4) (h7 : v7 < 2 ^ 4) :
    unpack_bits_4 (pack_bits_4 v0 v1 v2 v3 v4 v5 v6 v7) =
      [v0, v1, v2, v3, v4, v5, v6, v7] := by
  have key : unpack_bits_4 (pack_bits_4 v0 v1 v2 v3 v4 v5 v6 v7) =
      [ (((u8 (((((v0) &&& 0xf) <<< 4) ||| ((v1) &&& 0xf)))) >>> 4) &&& 0xf),
        (((u8 (((((v0) &&& 0xf) <<< 4) ||| ((v1) &&& 0xf))))) &&& 0xf),
        (((u8 (((((v2) &&& 0xf) <<< 4) ||| ((v3) &&& 0xf)))) >>> 4) &&& 0xf),
        (((u8 (((((v2) &&& 0xf) <<< 4) ||| ((v3) &&& 0xf))))) &&& 0xf),
        (((u8 (((((v4) &&& 0xf) <<< 4) ||| ((v5) &&& 0xf)))) >>> 4) &&& 0xf),
        (((u8 (((((v4) &&& 0xf) <<< 4) ||| ((v5) &&& 0xf))))) &&& 0xf),
        (((u8 (((((v6) &&& 0xf) <<< 4) ||| ((v7) &&& 0xf)))) >>> 4) &&& 0xf),
        (((u8 (((((v6) &&& 0xf) <<< 4) ||| ((v7) &&& 0xf))))) &&& 0xf) ] := rfl
  rw [key]
  rw [upb4_c0 v0 v1 h0,
    upb4_c1 v0 v1 h1,
    upb4_c2 v2 v3 h2,
    upb4_c3 v2 v3 h3,
    upb4_c4 v4 v5 h4,
    upb4_c5 v4 v5 h5,
    upb4_c6 v6 v7 h6,
    upb4_c7 v6 v7 h7]

theorem upb5_c0 (v0 v1 : Nat) (hv : v0 < 2 ^ 5) :
    (((u8 (((((v0) &&& 0x1f) <<< 3) ||| ((v1 >>> 2) &&& 0x7)))) >>> 3) &&& 0x1f) = v0 := by
  rw [show ((u8 (((((v0) &&& 0x1f) <<< 3) ||| ((v1 >>> 2) &&& 0x7)))) >>> 3) &&& 0x1f = v0 from by
    simp (disch := omega) only [u8, Nat.lor_assoc, Nat.shiftLeft_eq,
      Nat.shiftRight_eq_div_pow, land_mask1, land_mask3, land_mask7, land_mask15,
      land_mask31, land_mask63, land_mask127, land_mask255, lor_mul_pow,
      lor_add_mul_pow]
    omega]

theorem upb5_c1 (v0 v1 v2 v3 : Nat) (hv : v1 < 2 ^ 5) :
    (((((u8 (((((v0) &&& 0x1f) <<< 3) ||| ((v1 >>> 2) &&& 0x7))))) &&& 0x7)) <<< 2) ||| ((((u8 (((((v1) &&& 0x3) <<< 6) ||| (((v2) &&& 0x1f) <<< 1) ||| ((v3 >>> 4) &&& 0x1)))) >>> 6) &&& 0x3)) = v1 := by
  rw [show (((((u8 (((((v0) &&& 0x1f) <<< 3) ||| ((v1 >>> 2) &&& 0x7))))) &&& 0x7)) <<< 2) = v1 / 2 ^ 2 * 2 ^ 2 from by
    simp (disch := omega) only [u8, Nat.lor_assoc, Nat.shiftLeft_eq,
      Nat.shiftRight_eq_div_pow, land_mask1, land_mask3, land_mask7, land_mask15,
      land_mask31, land_mask63, land_mask127, land_mask255, lor_mul_pow,
      lor_add_mul_pow]
    omega]
  rw [show v1 / 2 ^ 2 * 2 ^ 2 ||| ((((u8 (((((v1) &&& 0x3) <<< 6) ||| (((v2) &&& 0x1f) <<< 1) ||| ((v3 >>> 4) &&& 0x1)))) >>> 6) &&& 0x3)) = v1 from by
    have hb : ((((u8 (((((v1) &&& 0x3) <<< 6) ||| (((v2) &&& 0x1f) <<< 1) ||| ((v3 >>> 4) &&& 0x1)))) >>> 6) &&& 0x3)) = v1 % 2 ^ 2 := by
      simp (disch := omega) only [u8, Nat.lor_assoc, Nat.shiftLeft_eq,
      Nat.shiftRight_eq_div_pow, land_mask1, land_mask3, land_mask7, land_mask15,
      land_mask31, land_mask63, land_mask127, land_mask255, lor_mul_pow,
      lor_add_mul_pow]
      omega
    have hs : v1 / 2 ^ 2 * 2 ^ 2 ||| v1 % 2 ^ 2 = v1 / 2 ^ 2 * 2 ^ 2 + v1 % 2 ^ 2 :=
      lor_eq_add _ _ 2 (by omega) (by omega)
    rw [hb, hs]
    omega]

theorem upb5_c2 (v1 v2 v3 : Nat) (hv : v2 < 2 ^ 5) :
    (((u8 (((((v1) &&& 0x3) <<< 6) ||| (((v2) &&& 0x1f) <<< 1) ||| ((v3 >>> 4) &&& 0x1)))) >>> 1) &&& 0x1f) = v2 := by
  rw [show ((u8 (((((v1) &&& 0x3) <<< 6) ||| (((v2) &&& 0x1f) <<< 1) ||| ((v3 >>> 4) &&& 0x1)))) >>> 1) &&& 0x1f = v2 from by
    simp (disch := omega) only [u8, Nat.lor_assoc, Nat.shiftLeft_eq,
      Nat.shiftRight_eq_div_pow, land_mask1, land_mask3, land_mask7, land_mask15,
      land_mask31, land_mask63, land_mask127, land_mask255, lor_mul_pow,
      lor_add_mul_pow]
    omega]

theorem upb5_c3 (v1 v2 v3 v4 : Nat) (hv : v3 < 2 ^ 5) :
    (((((u8 (((((v1) &&& 0x3) <<< 6) ||| (((v2) &&& 0x1f) <<< 1) ||| ((v3 >>> 4) &&& 0x1))))) &&& 0x1)) <<< 4) ||| ((((u8 (((((v3) &&& 0xf) <<< 4) ||| ((v4 >>> 1) &&& 0xf)))) >>> 4) &&& 0xf)) = v3 := by
  rw [show (((((u8 (((((v1) &&& 0x3) <<< 6) ||| (((v2) &&& 0x1f) <<< 1) ||| ((v3 >>> 4) &&& 0x1))))) &&& 0x1)) <<< 4) = v3 / 2 ^ 4 * 2 ^ 4 from by
    simp (disch := omega) only [u8, Nat.lor_assoc, Nat.shiftLeft_eq,
      Nat.shiftRight_eq_div_pow, land_mask1, land_mask3, land_mask7, land_mask15,
      land_mask31, land_mask63, land_mask127, land_mask255, lor_mul_pow,
      lor_add_mul_pow]
    omega]
  rw [show v3 / 2 ^ 4 * 2 ^ 4 ||| ((((u8 (((((v3) &&& 0xf) <<< 4) ||| ((v4 >>> 1) &&& 0xf)))) >>> 4) &&& 0xf)) = v3 from by
    have hb : ((((u8 (((((v3) &&& 0xf) <<< 4) ||| ((v4 >>> 1) &&& 0xf)))) >>> 4) &&& 0xf)) = v3 % 2 ^ 4 := by
      simp (disch := omega) only [u8, Nat.lor_assoc, Nat.shiftLeft_eq,
      Nat.shiftRight_eq_div_pow, land_mask1, land_mask3, land_mask7, land_mask15,
      land_mask31, land_mask63, land_mask127, land_mask255, lor_mul_pow,
      lor_add_mul_pow]
      omega
    have hs : v3 / 2 ^ 4 * 2 ^ 4 ||| v3 % 2 ^ 4 = v3 / 2 ^ 4 * 2 ^ 4 + v3 % 2 ^ 4 :=
      lor_eq_add _ _ 4 (by omega) (by omega)
    rw [hb, hs]
    omega]

theorem upb5_c4 (v3 v4 v5 v6 : Nat) (hv : v4 < 2 ^ 5) :
    (((((u8 (((((v3) &&& 0xf) <<< 4) ||| ((v4 >>> 1) &&& 0xf))))) &&& 0xf)) <<< 1) ||| ((((u8 (((((v4) &&& 0x1) <<< 7) ||| (((v5) &&& 0x1f) <<< 2) ||| ((v6 >>> 3) &&& 0x3)))) >>> 7) &&& 0x1)) = v4 := by
  rw [show (((((u8 (((((v3) &&& 0xf) <<< 4) ||| ((v4 >>> 1) &&& 0xf))))) &&& 0xf)) <<< 1) = v4 / 2 ^ 1 * 2 ^ 1 from by
    simp (disch := omega) only [u8, Nat.lor_assoc, Nat.shiftLeft_eq,
      Nat.shiftRight_eq_div_pow, land_mask1, land_mask3, land_mask7, land_mask15,
      land_mask31, land_mask63, land_mask127, land_mask255, lor_mul_pow,
      lor_add_mul_pow]
    omega]
  rw [show v4 / 2 ^ 1 * 2 ^ 1 ||| ((((u8 (((((v4) &&& 0x1) <<< 7) ||| (((v5) &&& 0x1f) <<< 2) ||| ((v6 >>> 3) &&& 0x3)))) >>> 7) &&& 0x1)) = v4 from by
    have hb : ((((u8 (((((v4) &&& 0x1) <<< 7) ||| (((v5) &&& 0x1f) <<< 2) ||| ((v6 >>> 3) &&& 0x3)))) >>> 7) &&& 0x1)) = v4 % 2 ^ 1 := by
      simp (disch := omega) only [u8, Nat.lor_assoc, Nat.shiftLeft_eq,
      Nat.shiftRight_eq_div_pow, land_mask1, land_mask3, land_mask7, land_mask15,
      land_mask31, land_mask63, land_mask127, land_mask255, lor_mul_pow,
      lor_add_mul_pow]
      omega
    have hs : v4 / 2 ^ 1 * 2 ^ 1 ||| v4 % 2 ^ 1 = v4 / 2 ^ 1 * 2 ^ 1 + v4 % 2 ^ 1 :=
      lor_eq_add _ _ 1 (by omega) (by omega)
    rw [hb, hs]
    omega]

theorem upb5_c5 (v4 v5 v6 : Nat) (hv : v5 < 2 ^ 5) :
    (((u8 (((((v4) &&& 0x1) <<< 7) ||| (((v5) &&& 0x1f) <<< 2) ||| ((v6 >>> 3) &&& 0x3)))) >>> 2) &&& 0x1f) = v5 := by
  rw [show ((u8 (((((v4) &&& 0x1) <<< 7) ||| (((v5) &&& 0x1f) <<< 2) ||| ((v6 >>> 3) &&& 0x3)))) >>> 2) &&& 0x1f = v5 from by
    simp (disch := omega) only [u8, Nat.lor_assoc, Nat.shiftLeft_eq,
      Nat.shiftRight_eq_div_pow, land_mask1, land_mask3, land_mask7, land_mask15,
      land_mask31, land_mask63, land_mask127, land_mask255, lor_mul_pow,
      lor_add_mul_pow]
    omega]

theorem upb5_c6 (v4 v5 v6 v7 : Nat) (hv : v6 < 2 ^ 5) :
    (((((u8 (((((v4) &&& 0x1) <<< 7) ||| (((v5) &&& 0x1f) <<< 2) ||| ((v6 >>> 3) &&& 0x3))))) &&& 0x3)) <<< 3) ||| ((((u8 (((((v6) &&& 0x7) <<< 5) ||| ((v7) &&& 0x1f)))) >>> 5) &&& 0x7)) = v6 := by
  rw [show (((((u8 (((((v4) &&& 0x1) <<< 7) ||| (((v5) &&& 0x1f) <<< 2) ||| ((v6 >>> 3) &&& 0x3))))) &&& 0x3)) <<< 3) = v6 / 2 ^ 3 * 2 ^ 3 from by
    simp (disch := omega) only [u8, Nat.lor_assoc, Nat.shiftLeft_eq,
      Nat.shiftRight_eq_div_pow, land_mask1, land_mask3, land_mask7, land_mask15,
      land_mask31, land_mask63, land_mask127, land_mask255, lor_mul_pow,
      lor_add_mul_pow]
    omega]
  rw [show v6 / 2 ^ 3 * 2 ^ 3 ||| ((((u8 (((((v6) &&& 0x7) <<< 5) ||| ((v7) &&& 0x1f)))) >>> 5) &&& 0x7)) = v6 from by
    have hb : ((((u8 (((((v6) &&& 0x7) <<< 5) ||| ((v7) &&& 0x1f)))) >>> 5) &&& 0x7)) = v6 % 2 ^ 3 := by
      simp (disch := omega) only [u8, Nat.lor_assoc, Nat.shiftLeft_eq,
      Nat.shiftRight_eq_div_pow, land_mask1, land_mask3, land_mask7, land_mask15,
      land_mask31, land_mask63, land_mask127, land_mask255, lor_mul_pow,
      lor_add_mul_pow]
      omega
    have hs : v6 / 2 ^ 3 * 2 ^ 3 ||| v6 % 2 ^ 3 = v6 / 2 ^ 3 * 2 ^ 3 + v6 % 2 ^ 3 :=
      lor_eq_add _ _ 3 (by omega) (by omega)
    rw [hb, hs]
    omega]

theorem upb5_c7 (v6 v7 : Nat) (hv : v7 < 2 ^ 5) :
    (((u8 (((((v6) &&& 0x7) <<< 5) ||| ((v7) &&& 0x1f))))) &&& 0x1f) = v7 := by
  rw [show ((u8 (((((v6) &&& 0x7) <<< 5) ||| ((v7) &&& 0x1f))))) &&& 0x1f = v7 from by
    simp (disch := omega) only [u8, Nat.lor_assoc, Nat.shiftLeft_eq,
      Nat.shiftRight_eq_div_pow, land_mask1, land_mask3, land_mask7, land_mask15,
      land_mask31, land_mask63, land_mask127, land_mask255, lor_mul_pow,
      lor_add_mul_pow]
    omega]

theorem unpack_pack_bits_5 (v0 v1 v2 v3 v4 v5 v6 v7 : Nat)
    (h0 : v0 < 2 ^ 5) (h1 : v1 < 2 ^ 5) (h2 : v2 < 2 ^ 5) (h3 : v3 < 2 ^ 5) (h4 : v4 < 2 ^ 5) (h5 : v5 < 2 ^ 5) (h6 : v6 < 2 ^ 5) (h7 : v7 < 2 ^ 5) :
    unpack_bits_5 (pack_bits_5 v0 v1 v2 v3 v4 v5 v6 v7) =
      [v0, v1, v2, v3, v4, v5, v6, v7] := by
  have key : unpack_bits_5 (pack_bits_5 v0 v1 v2 v3 v4 v5 v6 v7) =
      [ (((u8 (((((v0) &&& 0x1f) <<< 3) ||| ((v1 >>> 2) &&& 0x7)))) >>> 3) &&& 0x1f),
        (((((u8 (((((v0) &&& 0x1f) <<< 3) ||| ((v1 >>> 2) &&& 0x7))))) &&& 0x7)) <<< 2) ||| ((((u8 (((((v1) &&& 0x3) <<< 6) ||| (((v2) &&& 0x1f) <<< 1) ||| ((v3 >>> 4) &&& 0x1)))) >>> 6) &&& 0x3)),
        (((u8 (((((v1) &&& 0x3) <<< 6) ||| (((v2) &&& 0x1f) <<< 1) ||| ((v3 >>> 4) &&& 0x1)))) >>> 1) &&& 0x1f),
        (((((u8 (((((v1) &&& 0x3) <<< 6) ||| (((v2) &&& 0x1f) <<< 1) ||| ((v3 >>> 4) &&& 0x1))))) &&& 0x1)) <<< 4) ||| ((((u8 (((((v3) &&& 0xf) <<< 4) ||| ((v4 >>> 1) &&& 0xf)))) >>> 4) &&& 0xf)),
        (((((u8 (((((v3) &&& 0xf) <<< 4) ||| ((v4 >>> 1) &&& 0xf))))) &&& 0xf)) <<< 1) ||| ((((u8 (((((v4) &&& 0x1) <<< 7) ||| (((v5) &&& 0x1f) <<< 2) ||| ((v6 >>> 3) &&& 0x3)))) >>> 7) &&& 0x1)),
        (((u8 (((((v4) &&& 0x1) <<< 7) ||| (((v5) &&& 0x1f) <<< 2) ||| ((v6 >>> 3) &&& 0x3)))) >>> 2) &&& 0x1f),
        (((((u8 (((((v4) &&& 0x1) <<< 7) ||| (((v5) &&& 0x1f) <<< 2) ||| ((v6 >>> 3) &&& 0x3))))) &&& 0x3)) <<< 3) ||| ((((u8 (((((v6) &&& 0x7) <<< 5) ||| ((v7) &&& 0x1f)))) >>> 5) &&& 0x7)),
        (((u8 (((((v6) &&& 0x7) <<< 5) ||| ((v7) &&& 0x1f))))) &&& 0x1f) ] := rfl
  rw [key]
  rw [upb5_c0 v0 v1 h0,
    upb5_c1 v0 v1 v2 v3 h1,
    upb5_c2 v1 v2 v3 h2,
    upb5_c3 v1 v2 v3 v4 h3,
    upb5_c4 v3 v4 v5 v6 h4,
    upb5_c5 v4 v5 v6 h5,
    upb5_c6 v4 v5 v6 v7 h6,
    upb5_c7 v6 v7 h7]

theorem upb6_c0 (v0 v1 : Nat) (hv : v0 < 2 ^ 6) :
    (((u8 (((((v0) &&& 0x3f) <<< 2) ||| ((v1 >>> 4) &&& 0x3)))) >>> 2) &&& 0x3f) = v0 := by
  rw [show ((u8 (((((v0) &&& 0x3f) <<< 2) ||| ((v1 >>> 4) &&& 0x3)))) >>> 2) &&& 0x3f = v0 from by
    simp (disch := omega) only [u8, Nat.lor_assoc, Nat.shiftLeft_eq,
      Nat.shiftRight_eq_div_pow, land_mask1, land_mask3, land_mask7, land_mask15,
      land_mask31, land_mask63, land_mask127, land_mask255, lor_mul_pow,
      lor_add_mul_pow]
    omega]

theorem upb6_c1 (v0 v1 v2 : Nat) (hv : v1 < 2 ^ 6) :
    (((((u8 (((((v0) &&& 0x3f) <<< 2) ||| ((v1 >>> 4) &&& 0x3))))) &&& 0x3)) <<< 4) ||| ((((u8 (((((v1) &&& 0xf) <<< 4) ||| ((v2 >>> 2) &&& 0xf)))) >>> 4) &&& 0xf)) = v1 := by
  rw [show (((((u8 (((((v0) &&& 0x3f) <<< 2) ||| ((v1 >>> 4) &&& 0x3))))) &&& 0x3)) <<< 4) = v1 / 2 ^ 4 * 2 ^ 4 from by
    simp (disch := omega) only [u8, Nat.lor_assoc, Nat.shiftLeft_eq,
      Nat.shiftRight_eq_div_pow, land_mask1, land_mask3, land_mask7, land_mask15,
      land_mask31, land_mask63, land_mask127, land_mask255, lor_mul_pow,
      lor_add_mul_pow]
    omega]
  rw [show v1 / 2 ^ 4 * 2 ^ 4 ||| ((((u8 (((((v1) &&& 0xf) <<< 4) ||| ((v2 >>> 2) &&& 0xf)))) >>> 4) &&& 0xf)) = v1 from by
    have hb : ((((u8 (((((v1) &&& 0xf) <<< 4) ||| ((v2 >>> 2) &&& 0xf)))) >>> 4) &&& 0xf)) = v1 % 2 ^ 4 := by
      simp (disch := omega) only [u8, Nat.lor_assoc, Nat.shiftLeft_eq,
      Nat.shiftRight_eq_div_pow, land_mask1, land_mask3, land_mask7, land_mask15,
      land_mask31, land_mask63, land_mask127, land_mask255, lor_mul_pow,
      lor_add_mul_pow]
      omega
    have hs : v1 / 2 ^ 4 * 2 ^ 4 ||| v1 % 2 ^ 4 = v1 / 2 ^ 4 * 2 ^ 4 + v1 % 2 ^ 4 :=
      lor_eq_add _ _ 4 (by omega) (by omega)
    rw [hb, hs]
    omega]

theorem upb6_c2 (v1 v2 v3 : Nat) (hv : v2 < 2 ^ 6) :
    (((((u8 (((((v1) &&& 0xf) <<< 4) ||| ((v2 >>> 2) &&& 0xf))))) &&& 0xf)) <<< 2) ||| ((((u8 (((((v2) &&& 0x3) <<< 6) ||| ((v3) &&& 0x3f)))) >>> 6) &&& 0x3)) = v2 := by
  rw [show (((((u8 (((((v1) &&& 0xf) <<< 4) ||| ((v2 >>> 2) &&& 0xf))))) &&& 0xf)) <<< 2) = v2 / 2 ^ 2 * 2 ^ 2 from by
    simp (disch := omega) only [u8, Nat.lor_assoc, Nat.shiftLeft_eq,
      Nat.shiftRight_eq_div_pow, land_mask1, land_mask3, land_mask7, land_mask15,
      land_mask31, land_mask63, land_mask127, land_mask255, lor_mul_pow,
      lor_add_mul_pow]
    omega]
  rw [show v2 / 2 ^ 2 * 2 ^ 2 ||| ((((u8 (((((v2) &&& 0x3) <<< 6) ||| ((v3) &&& 0x3f)))) >>> 6) &&& 0x3)) = v2 from by
    have hb : ((((u8 (((((v2) &&& 0x3) <<< 6) ||| ((v3) &&& 0x3f)))) >>> 6) &&& 0x3)) = v2 % 2 ^ 2 := by
      simp (disch := omega) only [u8, Nat.lor_assoc, Nat.shiftLeft_eq,
      Nat.shiftRight_eq_div_pow, land_mask1, land_mask3, land_mask7, land_mask15,
      land_mask31, land_mask63, land_mask127, land_mask255, lor_mul_pow,
      lor_add_mul_pow]
      omega
    have hs : v2 / 2 ^ 2 * 2 ^ 2 ||| v2 % 2 ^ 2 = v2 / 2 ^ 2 * 2 ^ 2 + v2 % 2 ^ 2 :=
      lor_eq_add _ _ 2 (by omega) (by omega)
    rw [hb, hs]
    omega]

theorem upb6_c3 (v2 v3 : Nat) (hv : v3 < 2 ^ 6) :
    (((u8 (((((v2) &&& 0x3) <<< 6) ||| ((v3) &&& 0x3f))))) &&& 0x3f) = v3 := by
  rw [show ((u8 (((((v2) &&& 0x3) <<< 6) ||| ((v3) &&& 0x3f))))) &&& 0x3f = v3 from by
    simp (disch := omega) only [u8, Nat.lor_assoc, Nat.shiftLeft_eq,
      Nat.shiftRight_eq_div_pow, land_mask1, land_mask3, land_mask7, land_mask15,
      land_mask31, land_mask63, land_mask127, land_mask255, lor_mul_pow,
      lor_add_mul_pow]
    omega]

theorem upb6_c4 (v4 v5 : Nat) (hv : v4 < 2 ^ 6) :
    (((u8 (((((v4) &&& 0x3f) <<< 2) ||| ((v5 >>> 4) &&& 0x3)))) >>> 2) &&& 0x3f) = v4 := by
  rw [show ((u8 (((((v4) &&& 0x3f) <<< 2) ||| ((v5 >>> 4) &&& 0x3)))) >>> 2) &&& 0x3f = v4 from by
    simp (disch := omega) only [u8, Nat.lor_assoc, Nat.shiftLeft_eq,
      Nat.shiftRight_eq_div_pow, land_mask1, land_mask3, land_mask7, land_mask15,
      land_mask31, land_mask63, land_mask127, land_mask255, lor_mul_pow,
      lor_add_mul_pow]
    omega]

theorem upb6_c5 (v4 v5 v6 : Nat) (hv : v5 < 2 ^ 6) :
    (((((u8 (((((v4) &&& 0x3f) <<< 2) ||| ((v5 >>> 4) &&& 0x3))))) &&& 0x3)) <<< 4) ||| ((((u8 (((((v5) &&& 0xf) <<< 4) ||| ((v6 >>> 2) &&& 0xf)))) >>> 4) &&& 0xf)) = v5 := by
  rw [show (((((u8 (((((v4) &&& 0x3f) <<< 2) ||| ((v5 >>> 4) &&& 0x3))))) &&& 0x3)) <<< 4) = v5 / 2 ^ 4 * 2 ^ 4 from by
    simp (disch := omega) only [u8, Nat.lor_assoc, Nat.shiftLeft_eq,
      Nat.shiftRight_eq_div_pow, land_mask1, land_mask3, land_mask7, land_mask15,
      land_mask31, land_mask63, land_mask127, land_mask255, lor_mul_pow,
      lor_add_mul_pow]
    omega]
  rw [show v5 / 2 ^ 4 * 2 ^ 4 ||| ((((u8 (((((v5) &&& 0xf) <<< 4) ||| ((v6 >>> 2) &&& 0xf)))) >>> 4) &&& 0xf)) = v5 from by
    have hb : ((((u8 (((((v5) &&& 0xf) <<< 4) ||| ((v6 >>> 2) &&& 0xf)))) >>> 4) &&& 0xf)) = v5 % 2 ^ 4 := by
      simp (disch := omega) only [u8, Nat.lor_assoc, Nat.shiftLeft_eq,
      Nat.shiftRight_eq_div_pow, land_mask1, land_mask3, land_mask7, land_mask15,
      land_mask31, land_mask63, land_mask127, land_mask255, lor_mul_pow,
      lor_add_mul_pow]
      omega
    have hs : v5 / 2 ^ 4 * 2 ^ 4 ||| v5 % 2 ^ 4 = v5 / 2 ^ 4 * 2 ^ 4 + v5 % 2 ^ 4 :=
      lor_eq_add _ _ 4 (by omega) (by omega)
    rw [hb, hs]
    omega]

theorem upb6_c6 (v5 v6 v7 : Nat) (hv : v6 < 2 ^ 6) :
    (((((u8 (((((v5) &&& 0xf) <<< 4) ||| ((v6 >>> 2) &&& 0xf))))) &&& 0xf)) <<< 2) ||| ((((u8 (((((v6) &&& 0x3) <<< 6) ||| ((v7) &&& 0x3f)))) >>> 6) &&& 0x3)) = v6 := by
  rw [show (((((u8 (((((v5) &&& 0xf) <<< 4) ||| ((v6 >>> 2) &&& 0xf))))) &&& 0xf)) <<< 2) = v6 / 2 ^ 2 * 2 ^ 2 from by
    simp (disch := omega) only [u8, Nat.lor_assoc, Nat.shiftLeft_eq,
      Nat.shiftRight_eq_div_pow, land_mask1, land_mask3, land_mask7, land_mask15,
      land_mask31, land_mask63, land_mask127, land_mask255, lor_mul_pow,
      lor_add_mul_pow]
    omega]
  rw [show v6 / 2 ^ 2 * 2 ^ 2 ||| ((((u8 (((((v6) &&& 0x3) <<< 6) ||| ((v7) &&& 0x3f)))) >>> 6) &&& 0x3)) = v6 from by
    have hb : ((((u8 (((((v6) &&& 0x3) <<< 6) ||| ((v7) &&& 0x3f)))) >>> 6) &&& 0x3)) = v6 % 2 ^ 2 := by
      simp (disch := omega) only [u8, Nat.lor_assoc, Nat.shiftLeft_eq,
      Nat.shiftRight_eq_div_pow, land_mask1, land_mask3, land_mask7, land_mask15,
      land_mask31, land_mask63, land_mask127, land_mask255, lor_mul_pow,
      lor_add_mul_pow]
      omega
    have hs : v6 / 2 ^ 2 * 2 ^ 2 ||| v6 % 2 ^ 2 = v6 / 2 ^ 2 * 2 ^ 2 + v6 % 2 ^ 2 :=
      lor_eq_add _ _ 2 (by omega) (by omega)
    rw [hb, hs]
    omega]

theorem upb6_c7 (v6 v7 : Nat) (hv : v7 < 2 ^ 6) :
    (((u8 (((((v6) &&& 0x3) <<< 6) ||| ((v7) &&& 0x3f))))) &&& 0x3f) = v7 := by
  rw [show ((u8 (((((v6) &&& 0x3) <<< 6) ||| ((v7) &&& 0x3f))))) &&& 0x3f = v7 from by
    simp (disch := omega) only [u8, Nat.lor_assoc, Nat.shiftLeft_eq,
      Nat.shiftRight_eq_div_pow, land_mask1, land_mask3, land_mask7, land_mask15,
      land_mask31, land_mask63, land_mask127, land_mask255, lor_mul_pow,
      lor_add_mul_pow]
    omega]

theorem unpack_pack_bits_6 (v0 v1 v2 v3 v4 v5 v6 v7 : Nat)
    (h0 : v0 < 2 ^ 6) (h1 : v1 < 2 ^ 6) (h2 : v2 < 2 ^ 6) (h3 : v3 < 2 ^ 6) (h4 : v4 < 2 ^ 6) (h5 : v5 < 2 ^ 6) (h6 : v6 < 2 ^ 6) (h7 : v7 < 2 ^ 6) :
    unpack_bits_6 (pack_bits_6 v0 v1 v2 v3 v4 v5 v6 v7) =
      [v0, v1, v2, v3, v4, v5, v6, v7] := by
  have key : unpack_bits_6 (pack_bits_6 v0 v1 v2 v3 v4 v5 v6 v7) =
      [ (((u8 (((((v0) &&& 0x3f) <<< 2) ||| ((v1 >>> 4) &&& 0x3)))) >>> 2) &&& 0x3f),
        (((((u8 (((((v0) &&& 0x3f) <<< 2) ||| ((v1 >>> 4) &&& 0x3))))) &&& 0x3)) <<< 4) ||| ((((u8 (((((v1) &&& 0xf) <<< 4) ||| ((v2 >>> 2) &&& 0xf)))) >>> 4) &&& 0xf)),
        (((((u8 (((((v1) &&& 0xf) <<< 4) ||| ((v2 >>> 2) &&& 0xf))))) &&& 0xf)) <<< 2) ||| ((((u8 (((((v2) &&& 0x3) <<< 6) ||| ((v3) &&& 0x3f)))) >>> 6) &&& 0x3)),
        (((u8 (((((v2) &&& 0x3) <<< 6) ||| ((v3) &&& 0x3f))))) &&& 0x3f),
        (((u8 (((((v4) &&& 0x3f) <<< 2) ||| ((v5 >>> 4) &&& 0x3)))) >>> 2) &&& 0x3f),
        (((((u8 (((((v4) &&& 0x3f) <<< 2) ||| ((v5 >>> 4) &&& 0x3))))) &&& 0x3)) <<< 4) ||| ((((u8 (((((v5) &&& 0xf) <<< 4) ||| ((v6 >>> 2) &&& 0xf)))) >>> 4) &&& 0xf)),
        (((((u8 (((((v5) &&& 0xf) <<< 4) ||| ((v6 >>> 2) &&& 0xf))))) &&& 0xf)) <<< 2) ||| ((((u8 (((((v6) &&& 0x3) <<< 6) ||| ((v7) &&& 0x3f)))) >>> 6) &&& 0x3)),
        (((u8 (((((v6) &&& 0x3) <<< 6) ||| ((v7) &&& 0x3f))))) &&& 0x3f) ] := rfl
  rw [key]
  rw [upb6_c0 v0 v1 h0,
    upb6_c1 v0 v1 v2 h1,
    upb6_c2 v1 v2 v3 h2,
    upb6_c3 v2 v3 h3,
    upb6_c4 v4 v5 h4,
    upb6_c5 v4 v5 v6 h5,
    upb6_c6 v5 v6 v7 h6,
    upb6_c7 v6 v7 h7]

theorem upb7_c0 (v0 v1 : Nat) (hv : v0 < 2 ^ 7) :
    (((u8 (((((v0) &&& 0x7f) <<< 1) ||| ((v1 >>> 6) &&& 0x1)))) >>> 1) &&& 0x7f) = v0 := by
  rw [show ((u8 (((((v0) &&& 0x7f) <<< 1) ||| ((v1 >>> 6) &&& 0x1)))) >>> 1) &&& 0x7f = v0 from by
    simp (disch := omega) only [u8, Nat.lor_assoc, Nat.shiftLeft_eq,
      Nat.shiftRight_eq_div_pow, land_mask1, land_mask3, land_mask7, land_mask15,
      land_mask31, land_mask63, land_mask127, land_mask255, lor_mul_pow,
      lor_add_mul_pow]
    omega]

theorem upb7_c1 (v0 v1 v2 : Nat) (hv : v1 < 2 ^ 7) :
    (((((u8 (((((v0) &&& 0x7f) <<< 1) ||| ((v1 >>> 6) &&& 0x1))))) &&& 0x1)) <<< 6) ||| ((((u8 (((((v1) &&& 0x3f) <<< 2) ||| ((v2 >>> 5) &&& 0x3)))) >>> 2) &&& 0x3f)) = v1 := by
  rw [show (((((u8 (((((v0) &&& 0x7f) <<< 1) ||| ((v1 >>> 6) &&& 0x1))))) &&& 0x1)) <<< 6) = v1 / 2 ^ 6 * 2 ^ 6 from by
    simp (disch := omega) only [u8, Nat.lor_assoc, Nat.shiftLeft_eq,
      Nat.shiftRight_eq_div_pow, land_mask1, land_mask3, land_mask7, land_mask15,
      land_mask31, land_mask63, land_mask127, land_mask255, lor_mul_pow,
      lor_add_mul_pow]
    omega]
  rw [show v1 / 2 ^ 6 * 2 ^ 6 ||| ((((u8 (((((v1) &&& 0x3f) <<< 2) ||| ((v2 >>> 5) &&& 0x3)))) >>> 2) &&& 0x3f)) = v1 from by
    have hb : ((((u8 (((((v1) &&& 0x3f) <<< 2) ||| ((v2 >>> 5) &&& 0x3)))) >>> 2) &&& 0x3f)) = v1 % 2 ^ 6 := by
      simp (disch := omega) only [u8, Nat.lor_assoc, Nat.shiftLeft_eq,
      Nat.shiftRight_eq_div_pow, land_mask1, land_mask3, land_mask7, land_mask15,
      land_mask31, land_mask63, land_mask127, land_mask255, lor_mul_pow,
      lor_add_mul_pow]
      omega
    have hs : v1 / 2 ^ 6 * 2 ^ 6 ||| v1 % 2 ^ 6 = v1 / 2 ^ 6 * 2 ^ 6 + v1 % 2 ^ 6 :=
      lor_eq_add _ _ 6 (by omega) (by omega)
    rw [hb, hs]
    omega]

theorem upb7_c2 (v1 v2 v3 : Nat) (hv : v2 < 2 ^ 7) :
    (((((u8 (((((v1) &&& 0x3f) <<< 2) ||| ((v2 >>> 5) &&& 0x3))))) &&& 0x3)) <<< 5) ||| ((((u8 (((((v2) &&& 0x1f) <<< 3) ||| ((v3 >>> 4) &&& 0x7)))) >>> 3) &&& 0x1f)) = v2 := by
  rw [show (((((u8 (((((v1) &&& 0x3f) <<< 2) ||| ((v2 >>> 5) &&& 0x3))))) &&& 0x3)) <<< 5) = v2 / 2 ^ 5 * 2 ^ 5 from by
    simp (disch := omega) only [u8, Nat.lor_assoc, Nat.shiftLeft_eq,
      Nat.shiftRight_eq_div_pow, land_mask1, land_mask3, land_mask7, land_mask15,
      land_mask31, land_mask63, land_mask127, land_mask255, lor_mul_pow,
      lor_add_mul_pow]
    omega]
  rw [show v2 / 2 ^ 5 * 2 ^ 5 ||| ((((u8 (((((v2) &&& 0x1f) <<< 3) ||| ((v3 >>> 4) &&& 0x7)))) >>> 3) &&& 0x1f)) = v2 from by
    have hb : ((((u8 (((((v2) &&& 0x1f) <<< 3) ||| ((v3 >>> 4) &&& 0x7)))) >>> 3) &&& 0x1f)) = v2 % 2 ^ 5 := by
      simp (disch := omega) only [u8, Nat.lor_assoc, Nat.shiftLeft_eq,
      Nat.shiftRight_eq_div_pow, land_mask1, land_mask3, land_mask7, land_mask15,
      land_mask31, land_mask63, land_mask127, land_mask255, lor_mul_pow,
      lor_add_mul_pow]
      omega
    have hs : v2 / 2 ^ 5 * 2 ^ 5 ||| v2 % 2 ^ 5 = v2 / 2 ^ 5 * 2 ^ 5 + v2 % 2 ^ 5 :=
      lor_eq_add _ _ 5 (by omega) (by omega)
    rw [hb, hs]
    omega]

theorem upb7_c3 (v2 v3 v4 : Nat) (hv : v3 < 2 ^ 7) :
    (((((u8 (((((v2) &&& 0x1f) <<< 3) ||| ((v3 >>> 4) &&& 0x7))))) &&& 0x7)) <<< 4) ||| ((((u8 (((((v3) &&& 0xf) <<< 4) ||| ((v4 >>> 3) &&& 0xf)))) >>> 4) &&& 0xf)) = v3 := by
  rw [show (((((u8 (((((v2) &&& 0x1f) <<< 3) ||| ((v3 >>> 4) &&& 0x7))))) &&& 0x7)) <<< 4) = v3 / 2 ^ 4 * 2 ^ 4 from by
    simp (disch := omega) only [u8, Nat.lor_assoc, Nat.shiftLeft_eq,
      Nat.shiftRight_eq_div_pow, land_mask1, land_mask3, land_mask7, land_mask15,
      land_mask31, land_mask63, land_mask127, land_mask255, lor_mul_pow,
      lor_add_mul_pow]
    omega]
  rw [show v3 / 2 ^ 4 * 2 ^ 4 ||| ((((u8 (((((v3) &&& 0xf) <<< 4) ||| ((v4 >>> 3) &&& 0xf)))) >>> 4) &&& 0xf)) = v3 from by
    have hb : ((((u8 (((((v3) &&& 0xf) <<< 4) ||| ((v4 >>> 3) &&& 0xf)))) >>> 4) &&& 0xf)) = v3 % 2 ^ 4 := by
      simp (disch := omega) only [u8, Nat.lor_assoc, Nat.shiftLeft_eq,
      Nat.shiftRight_eq_div_pow, land_mask1, land_mask3, land_mask7, land_mask15,
      land_mask31, land_mask63, land_mask127, land_mask255, lor_mul_pow,
      lor_add_mul_pow]
      omega
    have hs : v3 / 2 ^ 4 * 2 ^ 4 ||| v3 % 2 ^ 4 = v3 / 2 ^ 4 * 2 ^ 4 + v3 % 2 ^ 4 :=
      lor_eq_add _ _ 4 (by omega) (by omega)
    rw [hb, hs]
    omega]

theorem upb7_c4 (v3 v4 v5 : Nat) (hv : v4 < 2 ^ 7) :
    (((((u8 (((((v3) &&& 0xf) <<< 4) ||| ((v4 >>> 3) &&& 0xf))))) &&& 0xf)) <<< 3) ||| ((((u8 (((((v4) &&& 0x7) <<< 5) ||| ((v5 >>> 2) &&& 0x1f)))) >>> 5) &&& 0x7)) = v4 := by
  rw [show (((((u8 (((((v3) &&& 0xf) <<< 4) ||| ((v4 >>> 3) &&& 0xf))))) &&& 0xf)) <<< 3) = v4 / 2 ^ 3 * 2 ^ 3 from by
    simp (disch := omega) only [u8, Nat.lor_assoc, Nat.shiftLeft_eq,
      Nat.shiftRight_eq_div_pow, land_mask1, land_mask3, land_mask7, land_mask15,
      land_mask31, land_mask63, land_mask127, land_mask255, lor_mul_pow,
      lor_add_mul_pow]
    omega]
  rw [show v4 / 2 ^ 3 * 2 ^ 3 ||| ((((u8 (((((v4) &&& 0x7) <<< 5) ||| ((v5 >>> 2) &&& 0x1f)))) >>> 5) &&& 0x7)) = v4 from by
    have hb : ((((u8 (((((v4) &&& 0x7) <<< 5) ||| ((v5 >>> 2) &&& 0x1f)))) >>> 5) &&& 0x7)) = v4 % 2 ^ 3 := by
      simp (disch := omega) only [u8, Nat.lor_assoc, Nat.shiftLeft_eq,
      Nat.shiftRight_eq_div_pow, land_mask1, land_mask3, land_mask7, land_mask15,
      land_mask31, land_mask63, land_mask127, land_mask255, lor_mul_pow,
      lor_add_mul_pow]
      omega
    have hs : v4 / 2 ^ 3 * 2 ^ 3 ||| v4 % 2 ^ 3 = v4 / 2 ^ 3 * 2 ^ 3 + v4 % 2 ^ 3 :=
      lor_eq_add _ _ 3 (by omega) (by omega)
    rw [hb, hs]
    omega]

theorem upb7_c5 (v4 v5 v6 : Nat) (hv : v5 < 2 ^ 7) :
    (((((u8 (((((v4) &&& 0x7) <<< 5) ||| ((v5 >>> 2) &&& 0x1f))))) &&& 0x1f)) <<< 2) ||| ((((u8 (((((v5) &&& 0x3) <<< 6) ||| ((v6 >>> 1) &&& 0x3f)))) >>> 6) &&& 0x3)) = v5 := by
  rw [show (((((u8 (((((v4) &&& 0x7) <<< 5) ||| ((v5 >>> 2) &&& 0x1f))))) &&& 0x1f)) <<< 2) = v5 / 2 ^ 2 * 2 ^ 2 from by
    simp (disch := omega) only [u8, Nat.lor_assoc, Nat.shiftLeft_eq,
      Nat.shiftRight_eq_div_pow, land_mask1, land_mask3, land_mask7, land_mask15,
      land_mask31, land_mask63, land_mask127, land_mask255, lor_mul_pow,
      lor_add_mul_pow]
    omega]
  rw [show v5 / 2 ^ 2 * 2 ^ 2 ||| ((((u8 (((((v5) &&& 0x3) <<< 6) ||| ((v6 >>> 1) &&& 0x3f)))) >>> 6) &&& 0x3)) = v5 from by
    have hb : ((((u8 (((((v5) &&& 0x3) <<< 6) ||| ((v6 >>> 1) &&& 0x3f)))) >>> 6) &&& 0x3)) = v5 % 2 ^ 2 := by
      simp (disch := omega) only [u8, Nat.lor_assoc, Nat.shiftLeft_eq,
      Nat.shiftRight_eq_div_pow, land_mask1, land_mask3, land_mask7, land_mask15,
      land_mask31, land_mask63, land_mask127, land_mask255, lor_mul_pow,
      lor_add_mul_pow]
      omega
    have hs : v5 / 2 ^ 2 * 2 ^ 2 ||| v5 % 2 ^ 2 = v5 / 2 ^ 2 * 2 ^ 2 + v5 % 2 ^ 2 :=
      lor_eq_add _ _ 2 (by omega) (by omega)
    rw [hb, hs]
    omega]

theorem upb7_c6 (v5 v6 v7 : Nat) (hv : v6 < 2 ^ 7) :
    (((((u8 (((((v5) &&& 0x3) <<< 6) ||| ((v6 >>> 1) &&& 0x3f))))) &&& 0x3f)) <<< 1) ||| ((((u8 (((((v6) &&& 0x1) <<< 7) ||| ((v7) &&& 0x7f)))) >>> 7) &&& 0x1)) = v6 := by
  rw [show (((((u8 (((((v5) &&& 0x3) <<< 6) ||| ((v6 >>> 1) &&& 0x3f))))) &&& 0x3f)) <<< 1) = v6 / 2 ^ 1 * 2 ^ 1 from by
    simp (disch := omega) only [u8, Nat.lor_assoc, Nat.shiftLeft_eq,
      Nat.shiftRight_eq_div_pow, land_mask1, land_mask3, land_mask7, land_mask15,
      land_mask31, land_mask63, land_mask127, land_mask255, lor_mul_pow,
      lor_add_mul_pow]
    omega]
  rw [show v6 / 2 ^ 1 * 2 ^ 1 ||| ((((u8 (((((v6) &&& 0x1) <<< 7) ||| ((v7) &&& 0x7f)))) >>> 7) &&& 0x1)) = v6 from by
    have hb : ((((u8 (((((v6) &&& 0x1) <<< 7) ||| ((v7) &&& 0x7f)))) >>> 7) &&& 0x1)) = v6 % 2 ^ 1 := by
      simp (disch := omega) only [u8, Nat.lor_assoc, Nat.shiftLeft_eq,
      Nat.shiftRight_eq_div_pow, land_mask1, land_mask3, land_mask7, land_mask15,
      land_mask31, land_mask63, land_mask127, land_mask255, lor_mul_pow,
      lor_add_mul_pow]
      omega
    have hs : v6 / 2 ^ 1 * 2 ^ 1 ||| v6 % 2 ^ 1 = v6 / 2 ^ 1 * 2 ^ 1 + v6 % 2 ^ 1 :=
      lor_eq_add _ _ 1 (by omega) (by omega)
    rw [hb, hs]
    omega]

theorem upb7_c7 (v6 v7 : Nat) (hv : v7 < 2 ^ 7) :
    (((u8 (((((v6) &&& 0x1) <<< 7) ||| ((v7) &&& 0x7f))))) &&& 0x7f) = v7 := by
  rw [show ((u8 (((((v6) &&& 0x1) <<< 7) ||| ((v7) &&& 0x7f))))) &&& 0x7f = v7 from by
    simp (disch := omega) only [u8, Nat.lor_assoc, Nat.shiftLeft_eq,
      Nat.shiftRight_eq_div_pow, land_mask1, land_mask3, land_mask7, land_mask15,
      land_mask31, land_mask63, land_mask127, land_mask255, lor_mul_pow,
      lor_add_mul_pow]
    omega]

theorem unpack_pack_bits_7 (v0 v1 v2 v3 v4 v5 v6 v7 : Nat)
    (h0 : v0 < 2 ^ 7) (h1 : v1 < 2 ^ 7) (h2 : v2 < 2 ^ 7) (h3 : v3 < 2 ^ 7) (h4 : v4 < 2 ^ 7) (h5 : v5 < 2 ^ 7) (h6 : v6 < 2 ^ 7) (h7 : v7 < 2 ^ 7) :
    unpack_bits_7 (pack_bits_7 v0 v1 v2 v3 v4 v5 v6 v7) =
      [v0, v1, v2, v3, v4, v5, v6, v7] := by
  have key : unpack_bits_7 (pack_bits_7 v0 v1 v2 v3 v4 v5 v6 v7) =
      [ (((u8 (((((v0) &&& 0x7f) <<< 1) ||| ((v1 >>> 6) &&& 0x1)))) >>> 1) &&& 0x7f),
        (((((u8 (((((v0) &&& 0x7f) <<< 1) ||| ((v1 >>> 6) &&& 0x1))))) &&& 0x1)) <<< 6) ||| ((((u8 (((((v1) &&& 0x3f) <<< 2) ||| ((v2 >>> 5) &&& 0x3)))) >>> 2) &&& 0x3f)),
        (((((u8 (((((v1) &&& 0x3f) <<< 2) ||| ((v2 >>> 5) &&& 0x3))))) &&& 0x3)) <<< 5) ||| ((((u8 (((((v2) &&& 0x1f) <<< 3) ||| ((v3 >>> 4) &&& 0x7)))) >>> 3) &&& 0x1f)),
        (((((u8 (((((v2) &&& 0x1f) <<< 3) ||| ((v3 >>> 4) &&& 0x7))))) &&& 0x7)) <<< 4) ||| ((((u8 (((((v3) &&& 0xf) <<< 4) ||| ((v4 >>> 3) &&& 0xf)))) >>> 4) &&& 0xf)),
        (((((u8 (((((v3) &&& 0xf) <<< 4) ||| ((v4 >>> 3) &&& 0xf))))) &&& 0xf)) <<< 3) ||| ((((u8 (((((v4) &&& 0x7) <<< 5) ||| ((v5 >>> 2) &&& 0x1f)))) >>> 5) &&& 0x7)),
        (((((u8 (((((v4) &&& 0x7) <<< 5) ||| ((v5 >>> 2) &&& 0x1f))))) &&& 0x1f)) <<< 2) ||| ((((u8 (((((v5) &&& 0x3) <<< 6) ||| ((v6 >>> 1) &&& 0x3f)))) >>> 6) &&& 0x3)),
        (((((u8 (((((v5) &&& 0x3) <<< 6) ||| ((v6 >>> 1) &&& 0x3f))))) &&& 0x3f)) <<< 1) ||| ((((u8 (((((v6) &&& 0x1) <<< 7) ||| ((v7) &&& 0x7f)))) >>> 7) &&& 0x1)),
        (((u8 (((((v6) &&& 0x1) <<< 7) ||| ((v7) &&& 0x7f))))) &&& 0x7f) ] := rfl
  rw [key]
  rw [upb7_c0 v0 v1 h0,
    upb7_c1 v0 v1 v2 h1,
    upb7_c2 v1 v2 v3 h2,
    upb7_c3 v2 v3 v4 h3,
    upb7_c4 v3 v4 v5 h4,
    upb7_c5 v4 v5 v6 h5,
    upb7_c6 v5 v6 v7 h6,
    upb7_c7 v6 v7 h7]

theorem upb8_c0 (v0 : Nat) (hv : v0 < 2 ^ 8) :
    ((u8 (((v0) &&& 0xff)))) = v0 := by
  rw [show u8 (((v0) &&& 0xff)) = v0 from by
    simp (disch := omega) only [u8, Nat.lor_assoc, Nat.shiftLeft_eq,
      Nat.shiftRight_eq_div_pow, land_mask1, land_mask3, land_mask7, land_mask15,
      land_mask31, land_mask63, land_mask127, land_mask255, lor_mul_pow,
      lor_add_mul_pow]
    omega]

theorem upb8_c1 (v1 : Nat) (hv : v1 < 2 ^ 8) :
    ((u8 (((v1) &&& 0xff)))) = v1 := by
  rw [show u8 (((v1) &&& 0xff)) = v1 from by
    simp (disch := omega) only [u8, Nat.lor_assoc, Nat.shiftLeft_eq,
      Nat.shiftRight_eq_div_pow, land_mask1, land_mask3, land_mask7, land_mask15,
      land_mask31, land_mask63, land_mask127, land_mask255, lor_mul_pow,
      lor_add_mul_pow]
    omega]

theorem upb8_c2 (v2 : Nat) (hv : v2 < 2 ^ 8) :
    ((u8 (((v2) &&& 0xff)))) = v2 := by
  rw [show u8 (((v2) &&& 0xff)) = v2 from by
    simp (disch := omega) only [u8, Nat.lor_assoc, Nat.shiftLeft_eq,
      Nat.shiftRight_eq_div_pow, land_mask1, land_mask3, land_mask7, land_mask15,
      land_mask31, land_mask63, land_mask127, land_mask255, lor_mul_pow,
      lor_add_mul_pow]
    omega]

theorem upb8_c3 (v3 : Nat) (hv : v3 < 2 ^ 8) :
    ((u8 (((v3) &&& 0xff)))) = v3 := by
  rw [show u8 (((v3) &&& 0xff)) = v3 from by
    simp (disch := omega) only [u8, Nat.lor_assoc, Nat.shiftLeft_eq,
      Nat.shiftRight_eq_div_pow, land_mask1, land_mask3, land_mask7, land_mask15,
      land_mask31, land_mask63, land_mask127, land_mask255, lor_mul_pow,
      lor_add_mul_pow]
    omega]

theorem upb8_c4 (v4 : Nat) (hv : v4 < 2 ^ 8) :
    ((u8 (((v4) &&& 0xff)))) = v4 := by
  rw [show u8 (((v4) &&& 0xff)) = v4 from by
    simp (disch := omega) only [u8, Nat.lor_assoc, Nat.shiftLeft_eq,
      Nat.shiftRight_eq_div_pow, land_mask1, land_mask3, land_mask7, land_mask15,
      land_mask31, land_mask63, land_mask127, land_mask255, lor_mul_pow,
      lor_add_mul_pow]
    omega]

theorem upb8_c5 (v5 : Nat) (hv : v5 < 2 ^ 8) :
    ((u8 (((v5) &&& 0xff)))) = v5 := by
  rw [show u8 (((v5) &&& 0xff)) = v5 from by
    simp (disch := omega) only [u8, Nat.lor_assoc, Nat.shiftLeft_eq,
      Nat.shiftRight_eq_div_pow, land_mask1, land_mask3, land_mask7, land_mask15,
      land_mask31, land_mask63, land_mask127, land_mask255, lor_mul_pow,
      lor_add_mul_pow]
    omega]

theorem upb8_c6 (v6 : Nat) (hv : v6 < 2 ^ 8) :
    ((u8 (((v6) &&& 0xff)))) = v6 := by
  rw [show u8 (((v6) &&& 0xff)) = v6 from by
    simp (disch := omega) only [u8, Nat.lor_assoc, Nat.shiftLeft_eq,
      Nat.shiftRight_eq_div_pow, land_mask1, land_mask3, land_mask7, land_mask15,
      land_mask31, land_mask63, land_mask127, land_mask255, lor_mul_pow,
      lor_add_mul_pow]
    omega]

theorem upb8_c7 (v7 : Nat) (hv : v7 < 2 ^ 8) :
    ((u8 (((v7) &&& 0xff)))) = v7 := by
  rw [show u8 (((v7) &&& 0xff)) = v7 from by
    simp (disch := omega) only [u8, Nat.lor_assoc, Nat.shiftLeft_eq,
      Nat.shiftRight_eq_div_pow, land_mask1, land_mask3, land_mask7, land_mask15,
      land_mask31, land_mask63, land_mask127, land_mask255, lor_mul_pow,
      lor_add_mul_pow]
    omega]

theorem unpack_pack_bits_8 (v0 v1 v2 v3 v4 v5 v6 v7 : Nat)
    (h0 : v0 < 2 ^ 8) (h1 : v1 < 2 ^ 8) (h2 : v2 < 2 ^ 8) (h3 : v3 < 2 ^ 8) (h4 : v4 < 2 ^ 8) (h5 : v5 < 2 ^ 8) (h6 : v6 < 2 ^ 8) (h7 : v7 < 2 ^ 8) :
    unpack_bits_8 (pack_bits_8 v0 v1 v2 v3 v4 v5 v6 v7) =
      [v0, v1, v2, v3, v4, v5, v6, v7] := by
  have key : unpack_bits_8 (pack_bits_8 v0 v1 v2 v3 v4 v5 v6 v7) =
      [ ((u8 (((v0) &&& 0xff)))),
        ((u8 (((v1) &&& 0xff)))),
        ((u8 (((v2) &&& 0xff)))),
        ((u8 (((v3) &&& 0xff)))),
        ((u8 (((v4) &&& 0xff)))),
        ((u8 (((v5) &&& 0xff)))),
        ((u8 (((v6) &&& 0xff)))),
        ((u8 (((v7) &&& 0xff)))) ] := rfl
  rw [key]
  rw [upb8_c0 v0 h0,
    upb8_c1 v1 h1,
    upb8_c2 v2 h2,
    upb8_c3 v3 h3,
    upb8_c4 v4 h4,
    upb8_c5 v5 h5,
    upb8_c6 v6 h6,
    upb8_c7 v7 h7]

theorem upb9_c0 (v0 v1 : Nat) (hv : v0 < 2 ^ 9) :
    ((((u8 (((v0 >>> 1) &&& 0xff))))) <<< 1) ||| ((((u8 (((((v0) &&& 0x1) <<< 7) ||| ((v1 >>> 2) &&& 0x7f)))) >>> 7) &&& 0x1)) = v0 := by
  rw [step_top v0 9 1 rfl hv]
  rw [step_last v0 (((v1 >>> 2) &&& 0x7f)) 7 1 1 rfl rfl
    (Nat.and_lt_two_pow _ (by norm_num))]

theorem upb9_c1 (v0 v1 v2 : Nat) (hv : v1 < 2 ^ 9) :
    (((((u8 (((((v0) &&& 0x1) <<< 7) ||| ((v1 >>> 2) &&& 0x7f))))) &&& 0x7f)) <<< 2) ||| ((((u8 (((((v1) &&& 0x3) <<< 6) ||| ((v2 >>> 3) &&& 0x3f)))) >>> 6) &&& 0x3)) = v1 := by
  rw [step_first (((v0) &&& 0x1)) v1 9 2 7 127 rfl rfl (by norm_num) hv]
  rw [step_last v1 (((v2 >>> 3) &&& 0x3f)) 6 2 3 rfl rfl
    (Nat.and_lt_two_pow _ (by norm_num))]

theorem upb9_c2 (v1 v2 v3 : Nat) (hv : v2 < 2 ^ 9) :
    (((((u8 (((((v1) &&& 0x3) <<< 6) ||| ((v2 >>> 3) &&& 0x3f))))) &&& 0x3f)) <<< 3) ||| ((((u8 (((((v2) &&& 0x7) <<< 5) ||| ((v3 >>> 4) &&& 0x1f)))) >>> 5) &&& 0x7)) = v2 := by
  rw [step_first (((v1) &&& 0x3)) v2 9 3 6 63 rfl rfl (by norm_num) hv]
  rw [step_last v2 (((v3 >>> 4) &&& 0x1f)) 5 3 7 rfl rfl
    (Nat.and_lt_two_pow _ (by norm_num))]

theorem upb9_c3 (v2 v3 v4 : Nat) (hv : v3 < 2 ^ 9) :
    (((((u8 (((((v2) &&& 0x7) <<< 5) ||| ((v3 >>> 4) &&& 0x1f))))) &&& 0x1f)) <<< 4) ||| ((((u8 (((((v3) &&& 0xf) <<< 4) ||| ((v4 >>> 5) &&& 0xf)))) >>> 4) &&& 0xf)) = v3 := by
  rw [step_first (((v2) &&& 0x7)) v3 9 4 5 31 rfl rfl (by norm_num) hv]
  rw [step_last v3 (((v4 >>> 5) &&& 0xf)) 4 4 15 rfl rfl
    (Nat.and_lt_two_pow _ (by norm_num))]

theorem upb9_c4 (v3 v4 v5 : Nat) (hv : v4 < 2 ^ 9) :
    (((((u8 (((((v3) &&& 0xf) <<< 4) ||| ((v4 >>> 5) &&& 0xf))))) &&& 0xf)) <<< 5) ||| ((((u8 (((((v4) &&& 0x1f) <<< 3) ||| ((v5 >>> 6) &&& 0x7)))) >>> 3) &&& 0x1f)) = v4 := by
  rw [step_first (((v3) &&& 0xf)) v4 9 5 4 15 rfl rfl (by norm_num) hv]
  rw [step_last v4 (((v5 >>> 6) &&& 0x7)) 3 5 31 rfl rfl
    (Nat.and_lt_two_pow _ (by norm_num))]

theorem upb9_c5 (v4 v5 v6 : Nat) (hv : v5 < 2 ^ 9) :
    (((((u8 (((((v4) &&& 0x1f) <<< 3) ||| ((v5 >>> 6) &&& 0x7))))) &&& 0x7)) <<< 6) ||| ((((u8 (((((v5) &&& 0x3f) <<< 2) ||| ((v6 >>> 7) &&& 0x3)))) >>> 2) &&& 0x3f)) = v5 := by
  rw [step_first (((v4) &&& 0x1f)) v5 9 6 3 7 rfl rfl (by norm_num) hv]
  rw [step_last v5 (((v6 >>> 7) &&& 0x3)) 2 6 63 rfl rfl
    (Nat.and_lt_two_pow _ (by norm_num))]

theorem upb9_c6 (v5 v6 v7 : Nat) (hv : v6 < 2 ^ 9) :
    (((((u8 (((((v5) &&& 0x3f) <<< 2) ||| ((v6 >>> 7) &&& 0x3))))) &&& 0x3)) <<< 7) ||| ((((u8 (((((v6) &&& 0x7f) <<< 1) ||| ((v7 >>> 8) &&& 0x1)))) >>> 1) &&& 0x7f)) = v6 := by
  rw [step_first (((v5) &&& 0x3f)) v6 9 7 2 3 rfl rfl (by norm_num) hv]
  rw [step_last v6 (((v7 >>> 8) &&& 0x1)) 1 7 127 rfl rfl
    (Nat.and_lt_two_pow _ (by norm_num))]

theorem upb9_c7 (v6 v7 : Nat) (hv : v7 < 2 ^ 9) :
    (((((u8 (((((v6) &&& 0x7f) <<< 1) ||| ((v7 >>> 8) &&& 0x1))))) &&& 0x1)) <<< 8) ||| (((u8 (((v7) &&& 0xff))))) = v7 := by
  rw [step_first (((v6) &&& 0x7f)) v7 9 8 1 1 rfl rfl (by norm_num) hv]
  rw [step_low v7]

theorem unpack_pack_bits_9 (v0 v1 v2 v3 v4 v5 v6 v7 : Nat)
    (h0 : v0 < 2 ^ 9) (h1 : v1 < 2 ^ 9) (h2 : v2 < 2 ^ 9) (h3 : v3 < 2 ^ 9) (h4 : v4 < 2 ^ 9) (h5 : v5 < 2 ^ 9) (h6 : v6 < 2 ^ 9) (h7 : v7 < 2 ^ 9) :
    unpack_bits_9 (pack_bits_9 v0 v1 v2 v3 v4 v5 v6 v7) =
      [v0, v1, v2, v3, v4, v5, v6, v7] := by
  have key : unpack_bits_9 (pack_bits_9 v0 v1 v2 v3 v4 v5 v6 v7) =
      [ ((((u8 (((v0 >>> 1) &&& 0xff))))) <<< 1) ||| ((((u8 (((((v0) &&& 0x1) <<< 7) ||| ((v1 >>> 2) &&& 0x7f)))) >>> 7) &&& 0x1)),
        (((((u8 (((((v0) &&& 0x1) <<< 7) ||| ((v1 >>> 2) &&& 0x7f))))) &&& 0x7f)) <<< 2) ||| ((((u8 (((((v1) &&& 0x3) <<< 6) ||| ((v2 >>> 3) &&& 0x3f)))) >>> 6) &&& 0x3)),
        (((((u8 (((((v1) &&& 0x3) <<< 6) ||| ((v2 >>> 3) &&& 0x3f))))) &&& 0x3f)) <<< 3) ||| ((((u8 (((((v2) &&& 0x7) <<< 5) ||| ((v3 >>> 4) &&& 0x1f)))) >>> 5) &&& 0x7)),
        (((((u8 (((((v2) &&& 0x7) <<< 5) ||| ((v3 >>> 4) &&& 0x1f))))) &&& 0x1f)) <<< 4) ||| ((((u8 (((((v3) &&& 0xf) <<< 4) ||| ((v4 >>> 5) &&& 0xf)))) >>> 4) &&& 0xf)),
        (((((u8 (((((v3) &&& 0xf) <<< 4) ||| ((v4 >>> 5) &&& 0xf))))) &&& 0xf)) <<< 5) ||| ((((u8 (((((v4) &&& 0x1f) <<< 3) ||| ((v5 >>> 6) &&& 0x7)))) >>> 3) &&& 0x1f)),
        (((((u8 (((((v4) &&& 0x1f) <<< 3) ||| ((v5 >>> 6) &&& 0x7))))) &&& 0x7)) <<< 6) ||| ((((u8 (((((v5) &&& 0x3f) <<< 2) ||| ((v6 >>> 7) &&& 0x3)))) >>> 2) &&& 0x3f)),
        (((((u8 (((((v5) &&& 0x3f) <<< 2) ||| ((v6 >>> 7) &&& 0x3))))) &&& 0x3)) <<< 7) ||| ((((u8 (((((v6) &&& 0x7f) <<< 1) ||| ((v7 >>> 8) &&& 0x1)))) >>> 1) &&& 0x7f)),
        (((((u8 (((((v6) &&& 0x7f) <<< 1) ||| ((v7 >>> 8) &&& 0x1))))) &&& 0x1)) <<< 8) ||| (((u8 (((v7) &&& 0xff))))) ] := rfl
  rw [key]
  rw [upb9_c0 v0 v1 h0,
    upb9_c1 v0 v1 v2 h1,
    upb9_c2 v1 v2 v3 h2,
    upb9_c3 v2 v3 v4 h3,
    upb9_c4 v3 v4 v5 h4,
    upb9_c5 v4 v5 v6 h5,
    upb9_c6 v5 v6 v7 h6,
    upb9_c7 v6 v7 h7]

theorem upb10_c0 (v0 v1 : Nat) (hv : v0 < 2 ^ 10) :
    ((((u8 (((v0 >>> 2) &&& 0xff))))) <<< 2) ||| ((((u8 (((((v0) &&& 0x3) <<< 6) ||| ((v1 >>> 4) &&& 0x3f)))) >>> 6) &&& 0x3)) = v0 := by
  rw [step_top v0 10 2 rfl hv]
  rw [step_last v0 (((v1 >>> 4) &&& 0x3f)) 6 2 3 rfl rfl
    (Nat.and_lt_two_pow _ (by norm_num))]

theorem upb10_c1 (v0 v1 v2 : Nat) (hv : v1 < 2 ^ 10) :
    (((((u8 (((((v0) &&& 0x3) <<< 6) ||| ((v1 >>> 4) &&& 0x3f))))) &&& 0x3f)) <<< 4) ||| ((((u8 (((((v1) &&& 0xf) <<< 4) ||| ((v2 >>> 6) &&& 0xf)))) >>> 4) &&& 0xf)) = v1 := by
  rw [step_first (((v0) &&& 0x3)) v1 10 4 6 63 rfl rfl (by norm_num) hv]
  rw [step_last v1 (((v2 >>> 6) &&& 0xf)) 4 4 15 rfl rfl
    (Nat.and_lt_two_pow _ (by norm_num))]

theorem upb10_c2 (v1 v2 v3 : Nat) (hv : v2 < 2 ^ 10) :
    (((((u8 (((((v1) &&& 0xf) <<< 4) ||| ((v2 >>> 6) &&& 0xf))))) &&& 0xf)) <<< 6) ||| ((((u8 (((((v2) &&& 0x3f) <<< 2) ||| ((v3 >>> 8) &&& 0x3)))) >>> 2) &&& 0x3f)) = v2 := by
  rw [step_first (((v1) &&& 0xf)) v2 10 6 4 15 rfl rfl (by norm_num) hv]
  rw [step_last v2 (((v3 >>> 8) &&& 0x3)) 2 6 63 rfl rfl
    (Nat.and_lt_two_pow _ (by norm_num))]

theorem upb10_c3 (v2 v3 : Nat) (hv : v3 < 2 ^ 10) :
    (((((u8 (((((v2) &&& 0x3f) <<< 2) ||| ((v3 >>> 8) &&& 0x3))))) &&& 0x3)) <<< 8) ||| (((u8 (((v3) &&& 0xff))))) = v3 := by
  rw [step_first (((v2) &&& 0x3f)) v3 10 8 2 3 rfl rfl (by norm_num) hv]
  rw [step_low v3]

theorem upb10_c4 (v4 v5 : Nat) (hv : v4 < 2 ^ 10) :
    ((((u8 (((v4 >>> 2) &&& 0xff))))) <<< 2) ||| ((((u8 (((((v4) &&& 0x3) <<< 6) ||| ((v5 >>> 4) &&& 0x3f)))) >>> 6) &&& 0x3)) = v4 := by
  rw [step_top v4 10 2 rfl hv]
  rw [step_last v4 (((v5 >>> 4) &&& 0x3f)) 6 2 3 rfl rfl
    (Nat.and_lt_two_pow _ (by norm_num))]

theorem upb10_c5 (v4 v5 v6 : Nat) (hv : v5 < 2 ^ 10) :
    (((((u8 (((((v4) &&& 0x3) <<< 6) ||| ((v5 >>> 4) &&& 0x3f))))) &&& 0x3f)) <<< 4) ||| ((((u8 (((((v5) &&& 0xf) <<< 4) ||| ((v6 >>> 6) &&& 0xf)))) >>> 4) &&& 0xf)) = v5 := by
  rw [step_first (((v4) &&& 0x3)) v5 10 4 6 63 rfl rfl (by norm_num) hv]
  rw [step_last v5 (((v6 >>> 6) &&& 0xf)) 4 4 15 rfl rfl
    (Nat.and_lt_two_pow _ (by norm_num))]

theorem upb10_c6 (v5 v6 v7 : Nat) (hv : v6 < 2 ^ 10) :
    (((((u8 (((((v5) &&& 0xf) <<< 4) ||| ((v6 >>> 6) &&& 0xf))))) &&& 0xf)) <<< 6) ||| ((((u8 (((((v6) &&& 0x3f) <<< 2) ||| ((v7 >>> 8) &&& 0x3)))) >>> 2) &&& 0x3f)) = v6 := by
  rw [step_first (((v5) &&& 0xf)) v6 10 6 4 15 rfl rfl (by norm_num) hv]
  rw [step_last v6 (((v7 >>> 8) &&& 0x3)) 2 6 63 rfl rfl
    (Nat.and_lt_two_pow _ (by norm_num))]

theorem upb10_c7 (v6 v7 : Nat) (hv : v7 < 2 ^ 10) :
    (((((u8 (((((v6) &&& 0x3f) <<< 2) ||| ((v7 >>> 8) &&& 0x3))))) &&& 0x3)) <<< 8) ||| (((u8 (((v7) &&& 0xff))))) = v7 := by
  rw [step_first (((v6) &&& 0x3f)) v7 10 8 2 3 rfl rfl (by norm_num) hv]
  rw [step_low v7]

theorem unpack_pack_bits_10 (v0 v1 v2 v3 v4 v5 v6 v7 : Nat)
    (h0 : v0 < 2 ^ 10) (h1 : v1 < 2 ^ 10) (h2 : v2 < 2 ^ 10) (h3 : v3 < 2 ^ 10) (h4 : v4 < 2 ^ 10) (h5 : v5 < 2 ^ 10) (h6 : v6 < 2 ^ 10) (h7 : v7 < 2 ^ 10) :
    unpack_bits_10 (pack_bits_10 v0 v1 v2 v3 v4 v5 v6 v7) =
      [v0, v1, v2, v3, v4, v5, v6, v7] := by
  have key : unpack_bits_10 (pack_bits_10 v0 v1 v2 v3 v4 v5 v6 v7) =
      [ ((((u8 (((v0 >>> 2) &&& 0xff))))) <<< 2) ||| ((((u8 (((((v0) &&& 0x3) <<< 6) ||| ((v1 >>> 4) &&& 0x3f)))) >>> 6) &&& 0x3)),
        (((((u8 (((((v0) &&& 0x3) <<< 6) ||| ((v1 >>> 4) &&& 0x3f))))) &&& 0x3f)) <<< 4) ||| ((((u8 (((((v1) &&& 0xf) <<< 4) ||| ((v2 >>> 6) &&& 0xf)))) >>> 4) &&& 0xf)),
        (((((u8 (((((v1) &&& 0xf) <<< 4) ||| ((v2 >>> 6) &&& 0xf))))) &&& 0xf)) <<< 6) ||| ((((u8 (((((v2) &&& 0x3f) <<< 2) ||| ((v3 >>> 8) &&& 0x3)))) >>> 2) &&& 0x3f)),
        (((((u8 (((((v2) &&& 0x3f) <<< 2) ||| ((v3 >>> 8) &&& 0x3))))) &&& 0x3)) <<< 8) ||| (((u8 (((v3) &&& 0xff))))),
        ((((u8 (((v4 >>> 2) &&& 0xff))))) <<< 2) ||| ((((u8 (((((v4) &&& 0x3) <<< 6) ||| ((v5 >>> 4) &&& 0x3f)))) >>> 6) &&& 0x3)),
        (((((u8 (((((v4) &&& 0x3) <<< 6) ||| ((v5 >>> 4) &&& 0x3f))))) &&& 0x3f)) <<< 4) ||| ((((u8 (((((v5) &&& 0xf) <<< 4) ||| ((v6 >>> 6) &&& 0xf)))) >>> 4) &&& 0xf)),
        (((((u8 (((((v5) &&& 0xf) <<< 4) ||| ((v6 >>> 6) &&& 0xf))))) &&& 0xf)) <<< 6) ||| ((((u8 (((((v6) &&& 0x3f) <<< 2) ||| ((v7 >>> 8) &&& 0x3)))) >>> 2) &&& 0x3f)),
        (((((u8 (((((v6) &&& 0x3f) <<< 2) ||| ((v7 >>> 8) &&& 0x3))))) &&& 0x3)) <<< 8) ||| (((u8 (((v7) &&& 0xff))))) ] := rfl
  rw [key]
  rw [upb10_c0 v0 v1 h0,
    upb10_c1 v0 v1 v2 h1,
    upb10_c2 v1 v2 v3 h2,
    upb10_c3 v2 v3 h3,
    upb10_c4 v4 v5 h4,
    upb10_c5 v4 v5 v6 h5,
    upb10_c6 v5 v6 v7 h6,
    upb10_c7 v6 v7 h7]

theorem upb11_c0 (v0 v1 : Nat) (hv : v0 < 2 ^ 11) :
    ((((u8 (((v0 >>> 3) &&& 0xff))))) <<< 3) ||| ((((u8 (((((v0) &&& 0x7) <<< 5) ||| ((v1 >>> 6) &&& 0x1f)))) >>> 5) &&& 0x7)) = v0 := by
  rw [step_top v0 11 3 rfl hv]
  rw [step_last v0 (((v1 >>> 6) &&& 0x1f)) 5 3 7 rfl rfl
    (Nat.and_lt_two_pow _ (by norm_num))]

theorem upb11_c1 (v0 v1 v2 : Nat) (hv : v1 < 2 ^ 11) :
    (((((u8 (((((v0) &&& 0x7) <<< 5) ||| ((v1 >>> 6) &&& 0x1f))))) &&& 0x1f)) <<< 6) ||| ((((u8 (((((v1) &&& 0x3f) <<< 2) ||| ((v2 >>> 9) &&& 0x3)))) >>> 2) &&& 0x3f)) = v1 := by
  rw [step_first (((v0) &&& 0x7)) v1 11 6 5 31 rfl rfl (by norm_num) hv]
  rw [step_last v1 (((v2 >>> 9) &&& 0x3)) 2 6 63 rfl rfl
    (Nat.and_lt_two_pow _ (by norm_num))]

theorem upb11_c2 (v1 v2 v3 : Nat) (hv : v2 < 2 ^ 11) :
    (((((u8 (((((v1) &&& 0x3f) <<< 2) ||| ((v2 >>> 9) &&& 0x3))))) &&& 0x3)) <<< 9) ||| ((((u8 (((v2 >>> 1) &&& 0xff))))) <<< 1) ||| ((((u8 (((((v2) &&& 0x1) <<< 7) ||| ((v3 >>> 4) &&& 0x7f)))) >>> 7) &&& 0x1)) = v2 := by
  rw [step_first (((v1) &&& 0x3f)) v2 11 9 2 3 rfl rfl (by norm_num) hv]
  rw [step_mid v2 9 1 rfl]
  rw [step_last v2 (((v3 >>> 4) &&& 0x7f)) 7 1 1 rfl rfl
    (Nat.and_lt_two_pow _ (by norm_num))]

theorem upb11_c3 (v2 v3 v4 : Nat) (hv : v3 < 2 ^ 11) :
    (((((u8 (((((v2) &&& 0x1) <<< 7) ||| ((v3 >>> 4) &&& 0x7f))))) &&& 0x7f)) <<< 4) ||| ((((u8 (((((v3) &&& 0xf) <<< 4) ||| ((v4 >>> 7) &&& 0xf)))) >>> 4) &&& 0xf)) = v3 := by
  rw [step_first (((v2) &&& 0x1)) v3 11 4 7 127 rfl rfl (by norm_num) hv]
  rw [step_last v3 (((v4 >>> 7) &&& 0xf)) 4 4 15 rfl rfl
    (Nat.and_lt_two_pow _ (by norm_num))]

theorem upb11_c4 (v3 v4 v5 : Nat) (hv : v4 < 2 ^ 11) :
    (((((u8 (((((v3) &&& 0xf) <<< 4) ||| ((v4 >>> 7) &&& 0xf))))) &&& 0xf)) <<< 7) ||| ((((u8 (((((v4) &&& 0x7f) <<< 1) ||| ((v5 >>> 10) &&& 0x1)))) >>> 1) &&& 0x7f)) = v4 := by
  rw [step_first (((v3) &&& 0xf)) v4 11 7 4 15 rfl rfl (by norm_num) hv]
  rw [step_last v4 (((v5 >>> 10) &&& 0x1)) 1 7 127 rfl rfl
    (Nat.and_lt_two_pow _ (by norm_num))]

theorem upb11_c5 (v4 v5 v6 : Nat) (hv : v5 < 2 ^ 11) :
    (((((u8 (((((v4) &&& 0x7f) <<< 1) ||| ((v5 >>> 10) &&& 0x1))))) &&& 0x1)) <<< 10) ||| ((((u8 (((v5 >>> 2) &&& 0xff))))) <<< 2) ||| ((((u8 (((((v5) &&& 0x3) <<< 6) ||| ((v6 >>> 5) &&& 0x3f)))) >>> 6) &&& 0x3)) = v5 := by
  rw [step_first (((v4) &&& 0x7f)) v5 11 10 1 1 rfl rfl (by norm_num) hv]
  rw [step_mid v5 10 2 rfl]
  rw [step_last v5 (((v6 >>> 5) &&& 0x3f)) 6 2 3 rfl rfl
    (Nat.and_lt_two_pow _ (by norm_num))]

theorem upb11_c6 (v5 v6 v7 : Nat) (hv : v6 < 2 ^ 11) :
    (((((u8 (((((v5) &&& 0x3) <<< 6) ||| ((v6 >>> 5) &&& 0x3f))))) &&& 0x3f)) <<< 5) ||| ((((u8 (((((v6) &&& 0x1f) <<< 3) ||| ((v7 >>> 8) &&& 0x7)))) >>> 3) &&& 0x1f)) = v6 := by
  rw [step_first (((v5) &&& 0x3)) v6 11 5 6 63 rfl rfl (by norm_num) hv]
  rw [step_last v6 (((v7 >>> 8) &&& 0x7)) 3 5 31 rfl rfl
    (Nat.and_lt_two_pow _ (by norm_num))]

theorem upb11_c7 (v6 v7 : Nat) (hv : v7 < 2 ^ 11) :
    (((((u8 (((((v6) &&& 0x1f) <<< 3) ||| ((v7 >>> 8) &&& 0x7))))) &&& 0x7)) <<< 8) ||| (((u8 (((v7) &&& 0xff))))) = v7 := by
  rw [step_first (((v6) &&& 0x1f)) v7 11 8 3 7 rfl rfl (by norm_num) hv]
  rw [step_low v7]

theorem unpack_pack_bits_11 (v0 v1 v2 v3 v4 v5 v6 v7 : Nat)
    (h0 : v0 < 2 ^ 11) (h1 : v1 < 2 ^ 11) (h2 : v2 < 2 ^ 11) (h3 : v3 < 2 ^ 11) (h4 : v4 < 2 ^ 11) (h5 : v5 < 2 ^ 11) (h6 : v6 < 2 ^ 11) (h7 : v7 < 2 ^ 11) :
    unpack_bits_11 (pack_bits_11 v0 v1 v2 v3 v4 v5 v6 v7) =
      [v0, v1, v2, v3, v4, v5, v6, v7] := by
  have key : unpack_bits_11 (pack_bits_11 v0 v1 v2 v3 v4 v5 v6 v7) =
      [ ((((u8 (((v0 >>> 3) &&& 0xff))))) <<< 3) ||| ((((u8 (((((v0) &&& 0x7) <<< 5) ||| ((v1 >>> 6) &&& 0x1f)))) >>> 5) &&& 0x7)),
        (((((u8 (((((v0) &&& 0x7) <<< 5) ||| ((v1 >>> 6) &&& 0x1f))))) &&& 0x1f)) <<< 6) ||| ((((u8 (((((v1) &&& 0x3f) <<< 2) ||| ((v2 >>> 9) &&& 0x3)))) >>> 2) &&& 0x3f)),
        (((((u8 (((((v1) &&& 0x3f) <<< 2) ||| ((v2 >>> 9) &&& 0x3))))) &&& 0x3)) <<< 9) ||| ((((u8 (((v2 >>> 1) &&& 0xff))))) <<< 1) ||| ((((u8 (((((v2) &&& 0x1) <<< 7) ||| ((v3 >>> 4) &&& 0x7f)))) >>> 7) &&& 0x1)),
        (((((u8 (((((v2) &&& 0x1) <<< 7) ||| ((v3 >>> 4) &&& 0x7f))))) &&& 0x7f)) <<< 4) ||| ((((u8 (((((v3) &&& 0xf) <<< 4) ||| ((v4 >>> 7) &&& 0xf)))) >>> 4) &&& 0xf)),
        (((((u8 (((((v3) &&& 0xf) <<< 4) ||| ((v4 >>> 7) &&& 0xf))))) &&& 0xf)) <<< 7) ||| ((((u8 (((((v4) &&& 0x7f) <<< 1) ||| ((v5 >>> 10) &&& 0x1)))) >>> 1) &&& 0x7f)),
        (((((u8 (((((v4) &&& 0x7f) <<< 1) ||| ((v5 >>> 10) &&& 0x1))))) &&& 0x1)) <<< 10) ||| ((((u8 (((v5 >>> 2) &&& 0xff))))) <<< 2) ||| ((((u8 (((((v5) &&& 0x3) <<< 6) ||| ((v6 >>> 5) &&& 0x3f)))) >>> 6) &&& 0x3)),
        (((((u8 (((((v5) &&& 0x3) <<< 6) ||| ((v6 >>> 5) &&& 0x3f))))) &&& 0x3f)) <<< 5) ||| ((((u8 (((((v6) &&& 0x1f) <<< 3) ||| ((v7 >>> 8) &&& 0x7)))) >>> 3) &&& 0x1f)),
        (((((u8 (((((v6) &&& 0x1f) <<< 3) ||| ((v7 >>> 8) &&& 0x7))))) &&& 0x7)) <<< 8) ||| (((u8 (((v7) &&& 0xff))))) ] := rfl
  rw [key]
  rw [upb11_c0 v0 v1 h0,
    upb11_c1 v0 v1 v2 h1,
    upb11_c2 v1 v2 v3 h2,
    upb11_c3 v2 v3 v4 h3,
    upb11_c4 v3 v4 v5 h4,
    upb11_c5 v4 v5 v6 h5,
    upb11_c6 v5 v6 v7 h6,
    upb11_c7 v6 v7 h7]

theorem upb12_c0 (v0 v1 : Nat) (hv : v0 < 2 ^ 12) :
    ((((u8 (((v0 >>> 4) &&& 0xff))))) <<< 4) ||| ((((u8 (((((v0) &&& 0xf) <<< 4) ||| ((v1 >>> 8) &&& 0xf)))) >>> 4) &&& 0xf)) = v0 := by
  rw [step_top v0 12 4 rfl hv]
  rw [step_last v0 (((v1 >>> 8) &&& 0xf)) 4 4 15 rfl rfl
    (Nat.and_lt_two_pow _ (by norm_num))]

theorem upb12_c1 (v0 v1 : Nat) (hv : v1 < 2 ^ 12) :
    (((((u8 (((((v0) &&& 0xf) <<< 4) ||| ((v1 >>> 8) &&& 0xf))))) &&& 0xf)) <<< 8) ||| (((u8 (((v1) &&& 0xff))))) = v1 := by
  rw [step_first (((v0) &&& 0xf)) v1 12 8 4 15 rfl rfl (by norm_num) hv]
  rw [step_low v1]

theorem upb12_c2 (v2 v3 : Nat) (hv : v2 < 2 ^ 12) :
    ((((u8 (((v2 >>> 4) &&& 0xff))))) <<< 4) ||| ((((u8 (((((v2) &&& 0xf) <<< 4) ||| ((v3 >>> 8) &&& 0xf)))) >>> 4) &&& 0xf)) = v2 := by
  rw [step_top v2 12 4 rfl hv]
  rw [step_last v2 (((v3 >>> 8) &&& 0xf)) 4 4 15 rfl rfl
    (Nat.and_lt_two_pow _ (by norm_num))]

theorem upb12_c3 (v2 v3 : Nat) (hv : v3 < 2 ^ 12) :
    (((((u8 (((((v2) &&& 0xf) <<< 4) ||| ((v3 >>> 8) &&& 0xf))))) &&& 0xf)) <<< 8) ||| (((u8 (((v3) &&& 0xff))))) = v3 := by
  rw [step_first (((v2) &&& 0xf)) v3 12 8 4 15 rfl rfl (by norm_num) hv]
  rw [step_low v3]

theorem upb12_c4 (v4 v5 : Nat) (hv : v4 < 2 ^ 12) :
    ((((u8 (((v4 >>> 4) &&& 0xff))))) <<< 4) ||| ((((u8 (((((v4) &&& 0xf) <<< 4) ||| ((v5 >>> 8) &&& 0xf)))) >>> 4) &&& 0xf)) = v4 := by
  rw [step_top v4 12 4 rfl hv]
  rw [step_last v4 (((v5 >>> 8) &&& 0xf)) 4 4 15 rfl rfl
    (Nat.and_lt_two_pow _ (by norm_num))]

theorem upb12_c5 (v4 v5 : Nat) (hv : v5 < 2 ^ 12) :
    (((((u8 (((((v4) &&& 0xf) <<< 4) ||| ((v5 >>> 8) &&& 0xf))))) &&& 0xf)) <<< 8) ||| (((u8 (((v5) &&& 0xff))))) = v5 := by
  rw [step_first (((v4) &&& 0xf)) v5 12 8 4 15 rfl rfl (by norm_num) hv]
  rw [step_low v5]

theorem upb12_c6 (v6 v7 : Nat) (hv : v6 < 2 ^ 12) :
    ((((u8 (((v6 >>> 4) &&& 0xff))))) <<< 4) ||| ((((u8 (((((v6) &&& 0xf) <<< 4) ||| ((v7 >>> 8) &&& 0xf)))) >>> 4) &&& 0xf)) = v6 := by
  rw [step_top v6 12 4 rfl hv]
  rw [step_last v6 (((v7 >>> 8) &&& 0xf)) 4 4 15 rfl rfl
    (Nat.and_lt_two_pow _ (by norm_num))]

theorem upb12_c7 (v6 v7 : Nat) (hv : v7 < 2 ^ 12) :
    (((((u8 (((((v6) &&& 0xf) <<< 4) ||| ((v7 >>> 8) &&& 0xf))))) &&& 0xf)) <<< 8) ||| (((u8 (((v7) &&& 0xff))))) = v7 := by
  rw [step_first (((v6) &&& 0xf)) v7 12 8 4 15 rfl rfl (by norm_num) hv]
  rw [step_low v7]

theorem unpack_pack_bits_12 (v0 v1 v2 v3 v4 v5 v6 v7 : Nat)
    (h0 : v0 < 2 ^ 12) (h1 : v1 < 2 ^ 12) (h2 : v2 < 2 ^ 12) (h3 : v3 < 2 ^ 12) (h4 : v4 < 2 ^ 12) (h5 : v5 < 2 ^ 12) (h6 : v6 < 2 ^ 12) (h7 : v7 < 2 ^ 12) :
    unpack_bits_12 (pack_bits_12 v0 v1 v2 v3 v4 v5 v6 v7) =
      [v0, v1, v2, v3, v4, v5, v6, v7] := by
  have key : unpack_bits_12 (pack_bits_12 v0 v1 v2 v3 v4 v5 v6 v7) =
      [ ((((u8 (((v0 >>> 4) &&& 0xff))))) <<< 4) ||| ((((u8 (((((v0) &&& 0xf) <<< 4) ||| ((v1 >>> 8) &&& 0xf)))) >>> 4) &&& 0xf)),
        (((((u8 (((((v0) &&& 0xf) <<< 4) ||| ((v1 >>> 8) &&& 0xf))))) &&& 0xf)) <<< 8) ||| (((u8 (((v1) &&& 0xff))))),
        ((((u8 (((v2 >>> 4) &&& 0xff))))) <<< 4) ||| ((((u8 (((((v2) &&& 0xf) <<< 4) ||| ((v3 >>> 8) &&& 0xf)))) >>> 4) &&& 0xf)),
        (((((u8 (((((v2) &&& 0xf) <<< 4) ||| ((v3 >>> 8) &&& 0xf))))) &&& 0xf)) <<< 8) ||| (((u8 (((v3) &&& 0xff))))),
        ((((u8 (((v4 >>> 4) &&& 0xff))))) <<< 4) ||| ((((u8 (((((v4) &&& 0xf) <<< 4) ||| ((v5 >>> 8) &&& 0xf)))) >>> 4) &&& 0xf)),
        (((((u8 (((((v4) &&& 0xf) <<< 4) ||| ((v5 >>> 8) &&& 0xf))))) &&& 0xf)) <<< 8) ||| (((u8 (((v5) &&& 0xff))))),
        ((((u8 (((v6 >>> 4) &&& 0xff))))) <<< 4) ||| ((((u8 (((((v6) &&& 0xf) <<< 4) ||| ((v7 >>> 8) &&& 0xf)))) >>> 4) &&& 0xf)),
        (((((u8 (((((v6) &&& 0xf) <<< 4) ||| ((v7 >>> 8) &&& 0xf))))) &&& 0xf)) <<< 8) ||| (((u8 (((v7) &&& 0xff))))) ] := rfl
  rw [key]
  rw [upb12_c0 v0 v1 h0,
    upb12_c1 v0 v1 h1,
    upb12_c2 v2 v3 h2,
    upb12_c3 v2 v3 h3,
    upb12_c4 v4 v5 h4,
    upb12_c5 v4 v5 h5,
    upb12_c6 v6 v7 h6,
    upb12_c7 v6 v7 h7]

theorem upb13_c0 (v0 v1 : Nat) (hv : v0 < 2 ^ 13) :
    ((((u8 (((v0 >>> 5) &&& 0xff))))) <<< 5) ||| ((((u8 (((((v0) &&& 0x1f) <<< 3) ||| ((v1 >>> 10) &&& 0x7)))) >>> 3) &&& 0x1f)) = v0 := by
  rw [step_top v0 13 5 rfl hv]
  rw [step_last v0 (((v1 >>> 10) &&& 0x7)) 3 5 31 rfl rfl
    (Nat.and_lt_two_pow _ (by norm_num))]

theorem upb13_c1 (v0 v1 v2 : Nat) (hv : v1 < 2 ^ 13) :
    (((((u8 (((((v0) &&& 0x1f) <<< 3) ||| ((v1 >>> 10) &&& 0x7))))) &&& 0x7)) <<< 10) ||| ((((u8 (((v1 >>> 2) &&& 0xff))))) <<< 2) ||| ((((u8 (((((v1) &&& 0x3) <<< 6) ||| ((v2 >>> 7) &&& 0x3f)))) >>> 6) &&& 0x3)) = v1 := by
  rw [step_first (((v0) &&& 0x1f)) v1 13 10 3 7 rfl rfl (by norm_num) hv]
  rw [step_mid v1 10 2 rfl]
  rw [step_last v1 (((v2 >>> 7) &&& 0x3f)) 6 2 3 rfl rfl
    (Nat.and_lt_two_pow _ (by norm_num))]

theorem upb13_c2 (v1 v2 v3 : Nat) (hv : v2 < 2 ^ 13) :
    (((((u8 (((((v1) &&& 0x3) <<< 6) ||| ((v2 >>> 7) &&& 0x3f))))) &&& 0x3f)) <<< 7) ||| ((((u8 (((((v2) &&& 0x7f) <<< 1) ||| ((v3 >>> 12) &&& 0x1)))) >>> 1) &&& 0x7f)) = v2 := by
  rw [step_first (((v1) &&& 0x3)) v2 13 7 6 63 rfl rfl (by norm_num) hv]
  rw [step_last v2 (((v3 >>> 12) &&& 0x1)) 1 7 127 rfl rfl
    (Nat.and_lt_two_pow _ (by norm_num))]

theorem upb13_c3 (v2 v3 v4 : Nat) (hv : v3 < 2 ^ 13) :
    (((((u8 (((((v2) &&& 0x7f) <<< 1) ||| ((v3 >>> 12) &&& 0x1))))) &&& 0x1)) <<< 12) ||| ((((u8 (((v3 >>> 4) &&& 0xff))))) <<< 4) ||| ((((u8 (((((v3) &&& 0xf) <<< 4) ||| ((v4 >>> 9) &&& 0xf)))) >>> 4) &&& 0xf)) = v3 := by
  rw [step_first (((v2) &&& 0x7f)) v3 13 12 1 1 rfl rfl (by norm_num) hv]
  rw [step_mid v3 12 4 rfl]
  rw [step_last v3 (((v4 >>> 9) &&& 0xf)) 4 4 15 rfl rfl
    (Nat.and_lt_two_pow _ (by norm_num))]

theorem upb13_c4 (v3 v4 v5 : Nat) (hv : v4 < 2 ^ 13) :
    (((((u8 (((((v3) &&& 0xf) <<< 4) ||| ((v4 >>> 9) &&& 0xf))))) &&& 0xf)) <<< 9) ||| ((((u8 (((v4 >>> 1) &&& 0xff))))) <<< 1) ||| ((((u8 (((((v4) &&& 0x1) <<< 7) ||| ((v5 >>> 6) &&& 0x7f)))) >>> 7) &&& 0x1)) = v4 := by
  rw [step_first (((v3) &&& 0xf)) v4 13 9 4 15 rfl rfl (by norm_num) hv]
  rw [step_mid v4 9 1 rfl]
  rw [step_last v4 (((v5 >>> 6) &&& 0x7f)) 7 1 1 rfl rfl
    (Nat.and_lt_two_pow _ (by norm_num))]

theorem upb13_c5 (v4 v5 v6 : Nat) (hv : v5 < 2 ^ 13) :
    (((((u8 (((((v4) &&& 0x1) <<< 7) ||| ((v5 >>> 6) &&& 0x7f))))) &&& 0x7f)) <<< 6) ||| ((((u8 (((((v5) &&& 0x3f) <<< 2) ||| ((v6 >>> 11) &&& 0x3)))) >>> 2) &&& 0x3f)) = v5 := by
  rw [step_first (((v4) &&& 0x1)) v5 13 6 7 127 rfl rfl (by norm_num) hv]
  rw [step_last v5 (((v6 >>> 11) &&& 0x3)) 2 6 63 rfl rfl
    (Nat.and_lt_two_pow _ (by norm_num))]

theorem upb13_c6 (v5 v6 v7 : Nat) (hv : v6 < 2 ^ 13) :
    (((((u8 (((((v5) &&& 0x3f) <<< 2) ||| ((v6 >>> 11) &&& 0x3))))) &&& 0x3)) <<< 11) ||| ((((u8 (((v6 >>> 3) &&& 0xff))))) <<< 3) ||| ((((u8 (((((v6) &&& 0x7) <<< 5) ||| ((v7 >>> 8) &&& 0x1f)))) >>> 5) &&& 0x7)) = v6 := by
  rw [step_first (((v5) &&& 0x3f)) v6 13 11 2 3 rfl rfl (by norm_num) hv]
  rw [step_mid v6 11 3 rfl]
  rw [step_last v6 (((v7 >>> 8) &&& 0x1f)) 5 3 7 rfl rfl
    (Nat.and_lt_two_pow _ (by norm_num))]

theorem upb13_c7 (v6 v7 : Nat) (hv : v7 < 2 ^ 13) :
    (((((u8 (((((v6) &&& 0x7) <<< 5) ||| ((v7 >>> 8) &&& 0x1f))))) &&& 0x1f)) <<< 8) ||| (((u8 (((v7) &&& 0xff))))) = v7 := by
  rw [step_first (((v6) &&& 0x7)) v7 13 8 5 31 rfl rfl (by norm_num) hv]
  rw [step_low v7]

theorem unpack_pack_bits_13 (v0 v1 v2 v3 v4 v5 v6 v7 : Nat)
    (h0 : v0 < 2 ^ 13) (h1 : v1 < 2 ^ 13) (h2 : v2 < 2 ^ 13) (h3 : v3 < 2 ^ 13) (h4 : v4 < 2 ^ 13) (h5 : v5 < 2 ^ 13) (h6 : v6 < 2 ^ 13) (h7 : v7 < 2 ^ 13) :
    unpack_bits_13 (pack_bits_13 v0 v1 v2 v3 v4 v5 v6 v7) =
      [v0, v1, v2, v3, v4, v5, v6, v7] := by
  have key : unpack_bits_13 (pack_bits_13 v0 v1 v2 v3 v4 v5 v6 v7) =
      [ ((((u8 (((v0 >>> 5) &&& 0xff))))) <<< 5) ||| ((((u8 (((((v0) &&& 0x1f) <<< 3) ||| ((v1 >>> 10) &&& 0x7)))) >>> 3) &&& 0x1f)),
        (((((u8 (((((v0) &&& 0x1f) <<< 3) ||| ((v1 >>> 10) &&& 0x7))))) &&& 0x7)) <<< 10) ||| ((((u8 (((v1 >>> 2) &&& 0xff))))) <<< 2) ||| ((((u8 (((((v1) &&& 0x3) <<< 6) ||| ((v2 >>> 7) &&& 0x3f)))) >>> 6) &&& 0x3)),
        (((((u8 (((((v1) &&& 0x3) <<< 6) ||| ((v2 >>> 7) &&& 0x3f))))) &&& 0x3f)) <<< 7) ||| ((((u8 (((((v2) &&& 0x7f) <<< 1) ||| ((v3 >>> 12) &&& 0x1)))) >>> 1) &&& 0x7f)),
        (((((u8 (((((v2) &&& 0x7f) <<< 1) ||| ((v3 >>> 12) &&& 0x1))))) &&& 0x1)) <<< 12) ||| ((((u8 (((v3 >>> 4) &&& 0xff))))) <<< 4) ||| ((((u8 (((((v3) &&& 0xf) <<< 4) ||| ((v4 >>> 9) &&& 0xf)))) >>> 4) &&& 0xf)),
        (((((u8 (((((v3) &&& 0xf) <<< 4) ||| ((v4 >>> 9) &&& 0xf))))) &&& 0xf)) <<< 9) ||| ((((u8 (((v4 >>> 1) &&& 0xff))))) <<< 1) ||| ((((u8 (((((v4) &&& 0x1) <<< 7) ||| ((v5 >>> 6) &&& 0x7f)))) >>> 7) &&& 0x1)),
        (((((u8 (((((v4) &&& 0x1) <<< 7) ||| ((v5 >>> 6) &&& 0x7f))))) &&& 0x7f)) <<< 6) ||| ((((u8 (((((v5) &&& 0x3f) <<< 2) ||| ((v6 >>> 11) &&& 0x3)))) >>> 2) &&& 0x3f)),
        (((((u8 (((((v5) &&& 0x3f) <<< 2) ||| ((v6 >>> 11) &&& 0x3))))) &&& 0x3)) <<< 11) ||| ((((u8 (((v6 >>> 3) &&& 0xff))))) <<< 3) ||| ((((u8 (((((v6) &&& 0x7) <<< 5) ||| ((v7 >>> 8) &&& 0x1f)))) >>> 5) &&& 0x7)),
        (((((u8 (((((v6) &&& 0x7) <<< 5) ||| ((v7 >>> 8) &&& 0x1f))))) &&& 0x1f)) <<< 8) ||| (((u8 (((v7) &&& 0xff))))) ] := rfl
  rw [key]
  rw [upb13_c0 v0 v1 h0,
    upb13_c1 v0 v1 v2 h1,
    upb13_c2 v1 v2 v3 h2,
    upb13_c3 v2 v3 v4 h3,
    upb13_c4 v3 v4 v5 h4,
    upb13_c5 v4 v5 v6 h5,
    upb13_c6 v5 v6 v7 h6,
    upb13_c7 v6 v7 h7]

theorem upb14_c0 (v0 v1 : Nat) (hv : v0 < 2 ^ 14) :
    ((((u8 (((v0 >>> 6) &&& 0xff))))) <<< 6) ||| ((((u8 (((((v0) &&& 0x3f) <<< 2) ||| ((v1 >>> 12) &&& 0x3)))) >>> 2) &&& 0x3f)) = v0 := by
  rw [step_top v0 14 6 rfl hv]
  rw [step_last v0 (((v1 >>> 12) &&& 0x3)) 2 6 63 rfl rfl
    (Nat.and_lt_two_pow _ (by norm_num))]

theorem upb14_c1 (v0 v1 v2 : Nat) (hv : v1 < 2 ^ 14) :
    (((((u8 (((((v0) &&& 0x3f) <<< 2) ||| ((v1 >>> 12) &&& 0x3))))) &&& 0x3)) <<< 12) ||| ((((u8 (((v1 >>> 4) &&& 0xff))))) <<< 4) ||| ((((u8 (((((v1) &&& 0xf) <<< 4) ||| ((v2 >>> 10) &&& 0xf)))) >>> 4) &&& 0xf)) = v1 := by
  rw [step_first (((v0) &&& 0x3f)) v1 14 12 2 3 rfl rfl (by norm_num) hv]
  rw [step_mid v1 12 4 rfl]
  rw [step_last v1 (((v2 >>> 10) &&& 0xf)) 4 4 15 rfl rfl
    (Nat.and_lt_two_pow _ (by norm_num))]

theorem upb14_c2 (v1 v2 v3 : Nat) (hv : v2 < 2 ^ 14) :
    (((((u8 (((((v1) &&& 0xf) <<< 4) ||| ((v2 >>> 10) &&& 0xf))))) &&& 0xf)) <<< 10) ||| ((((u8 (((v2 >>> 2) &&& 0xff))))) <<< 2) ||| ((((u8 (((((v2) &&& 0x3) <<< 6) ||| ((v3 >>> 8) &&& 0x3f)))) >>> 6) &&& 0x3)) = v2 := by
  rw [step_first (((v1) &&& 0xf)) v2 14 10 4 15 rfl rfl (by norm_num) hv]
  rw [step_mid v2 10 2 rfl]
  rw [step_last v2 (((v3 >>> 8) &&& 0x3f)) 6 2 3 rfl rfl
    (Nat.and_lt_two_pow _ (by norm_num))]

theorem upb14_c3 (v2 v3 : Nat) (hv : v3 < 2 ^ 14) :
    (((((u8 (((((v2) &&& 0x3) <<< 6) ||| ((v3 >>> 8) &&& 0x3f))))) &&& 0x3f)) <<< 8) ||| (((u8 (((v3) &&& 0xff))))) = v3 := by
  rw [step_first (((v2) &&& 0x3)) v3 14 8 6 63 rfl rfl (by norm_num) hv]
  rw [step_low v3]

theorem upb14_c4 (v4 v5 : Nat) (hv : v4 < 2 ^ 14) :
    ((((u8 (((v4 >>> 6) &&& 0xff))))) <<< 6) ||| ((((u8 (((((v4) &&& 0x3f) <<< 2) ||| ((v5 >>> 12) &&& 0x3)))) >>> 2) &&& 0x3f)) = v4 := by
  rw [step_top v4 14 6 rfl hv]
  rw [step_last v4 (((v5 >>> 12) &&& 0x3)) 2 6 63 rfl rfl
    (Nat.and_lt_two_pow _ (by norm_num))]

theorem upb14_c5 (v4 v5 v6 : Nat) (hv : v5 < 2 ^ 14) :
    (((((u8 (((((v4) &&& 0x3f) <<< 2) ||| ((v5 >>> 12) &&& 0x3))))) &&& 0x3)) <<< 12) ||| ((((u8 (((v5 >>> 4) &&& 0xff))))) <<< 4) ||| ((((u8 (((((v5) &&& 0xf) <<< 4) ||| ((v6 >>> 10) &&& 0xf)))) >>> 4) &&& 0xf)) = v5 := by
  rw [step_first (((v4) &&& 0x3f)) v5 14 12 2 3 rfl rfl (by norm_num) hv]
  rw [step_mid v5 12 4 rfl]
  rw [step_last v5 (((v6 >>> 10) &&& 0xf)) 4 4 15 rfl rfl
    (Nat.and_lt_two_pow _ (by norm_num))]

theorem upb14_c6 (v5 v6 v7 : Nat) (hv : v6 < 2 ^ 14) :
    (((((u8 (((((v5) &&& 0xf) <<< 4) ||| ((v6 >>> 10) &&& 0xf))))) &&& 0xf)) <<< 10) ||| ((((u8 (((v6 >>> 2) &&& 0xff))))) <<< 2) ||| ((((u8 (((((v6) &&& 0x3) <<< 6) ||| ((v7 >>> 8) &&& 0x3f)))) >>> 6) &&& 0x3)) = v6 := by
  rw [step_first (((v5) &&& 0xf)) v6 14 10 4 15 rfl rfl (by norm_num) hv]
  rw [step_mid v6 10 2 rfl]
  rw [step_last v6 (((v7 >>> 8) &&& 0x3f)) 6 2 3 rfl rfl
    (Nat.and_lt_two_pow _ (by norm_num))]

theorem upb14_c7 (v6 v7 : Nat) (hv : v7 < 2 ^ 14) :
    (((((u8 (((((v6) &&& 0x3) <<< 6) ||| ((v7 >>> 8) &&& 0x3f))))) &&& 0x3f)) <<< 8) ||| (((u8 (((v7) &&& 0xff))))) = v7 := by
  rw [step_first (((v6) &&& 0x3)) v7 14 8 6 63 rfl rfl (by norm_num) hv]
  rw [step_low v7]

theorem unpack_pack_bits_14 (v0 v1 v2 v3 v4 v5 v6 v7 : Nat)
    (h0 : v0 < 2 ^ 14) (h1 : v1 < 2 ^ 14) (h2 : v2 < 2 ^ 14) (h3 : v3 < 2 ^ 14) (h4 : v4 < 2 ^ 14) (h5 : v5 < 2 ^ 14) (h6 : v6 < 2 ^ 14) (h7 : v7 < 2 ^ 14) :
    unpack_bits_14 (pack_bits_14 v0 v1 v2 v3 v4 v5 v6 v7) =
      [v0, v1, v2, v3, v4, v5, v6, v7] := by
  have key : unpack_bits_14 (pack_bits_14 v0 v1 v2 v3 v4 v5 v6 v7) =
      [ ((((u8 (((v0 >>> 6) &&& 0xff))))) <<< 6) ||| ((((u8 (((((v0) &&& 0x3f) <<< 2) ||| ((v1 >>> 12) &&& 0x3)))) >>> 2) &&& 0x3f)),
        (((((u8 (((((v0) &&& 0x3f) <<< 2) ||| ((v1 >>> 12) &&& 0x3))))) &&& 0x3)) <<< 12) ||| ((((u8 (((v1 >>> 4) &&& 0xff))))) <<< 4) ||| ((((u8 (((((v1) &&& 0xf) <<< 4) ||| ((v2 >>> 10) &&& 0xf)))) >>> 4) &&& 0xf)),
        (((((u8 (((((v1) &&& 0xf) <<< 4) ||| ((v2 >>> 10) &&& 0xf))))) &&& 0xf)) <<< 10) ||| ((((u8 (((v2 >>> 2) &&& 0xff))))) <<< 2) ||| ((((u8 (((((v2) &&& 0x3) <<< 6) ||| ((v3 >>> 8) &&& 0x3f)))) >>> 6) &&& 0x3)),
        (((((u8 (((((v2) &&& 0x3) <<< 6) ||| ((v3 >>> 8) &&& 0x3f))))) &&& 0x3f)) <<< 8) ||| (((u8 (((v3) &&& 0xff))))),
        ((((u8 (((v4 >>> 6) &&& 0xff))))) <<< 6) ||| ((((u8 (((((v4) &&& 0x3f) <<< 2) ||| ((v5 >>> 12) &&& 0x3)))) >>> 2) &&& 0x3f)),
        (((((u8 (((((v4) &&& 0x3f) <<< 2) ||| ((v5 >>> 12) &&& 0x3))))) &&& 0x3)) <<< 12) ||| ((((u8 (((v5 >>> 4) &&& 0xff))))) <<< 4) ||| ((((u8 (((((v5) &&& 0xf) <<< 4) ||| ((v6 >>> 10) &&& 0xf)))) >>> 4) &&& 0xf)),
        (((((u8 (((((v5) &&& 0xf) <<< 4) ||| ((v6 >>> 10) &&& 0xf))))) &&& 0xf)) <<< 10) ||| ((((u8 (((v6 >>> 2) &&& 0xff))))) <<< 2) ||| ((((u8 (((((v6) &&& 0x3) <<< 6) ||| ((v7 >>> 8) &&& 0x3f)))) >>> 6) &&& 0x3)),
        (((((u8 (((((v6) &&& 0x3) <<< 6) ||| ((v7 >>> 8) &&& 0x3f))))) &&& 0x3f)) <<< 8) ||| (((u8 (((v7) &&& 0xff))))) ] := rfl
  rw [key]
  rw [upb14_c0 v0 v1 h0,
    upb14_c1 v0 v1 v2 h1,
    upb14_c2 v1 v2 v3 h2,
    upb14_c3 v2 v3 h3,
    upb14_c4 v4 v5 h4,
    upb14_c5 v4 v5 v6 h5,
    upb14_c6 v5 v6 v7 h6,
    upb14_c7 v6 v7 h7]

theorem upb15_c0 (v0 v1 : Nat) (hv : v0 < 2 ^ 15) :
    ((((u8 (((v0 >>> 7) &&& 0xff))))) <<< 7) ||| ((((u8 (((((v0) &&& 0x7f) <<< 1) ||| ((v1 >>> 14) &&& 0x1)))) >>> 1) &&& 0x7f)) = v0 := by
  rw [step_top v0 15 7 rfl hv]
  rw [step_last v0 (((v1 >>> 14) &&& 0x1)) 1 7 127 rfl rfl
    (Nat.and_lt_two_pow _ (by norm_num))]

theorem upb15_c1 (v0 v1 v2 : Nat) (hv : v1 < 2 ^ 15) :
    (((((u8 (((((v0) &&& 0x7f) <<< 1) ||| ((v1 >>> 14) &&& 0x1))))) &&& 0x1)) <<< 14) ||| ((((u8 (((v1 >>> 6) &&& 0xff))))) <<< 6) ||| ((((u8 (((((v1) &&& 0x3f) <<< 2) ||| ((v2 >>> 13) &&& 0x3)))) >>> 2) &&& 0x3f)) = v1 := by
  rw [step_first (((v0) &&& 0x7f)) v1 15 14 1 1 rfl rfl (by norm_num) hv]
  rw [step_mid v1 14 6 rfl]
  rw [step_last v1 (((v2 >>> 13) &&& 0x3)) 2 6 63 rfl rfl
    (Nat.and_lt_two_pow _ (by norm_num))]

theorem upb15_c2 (v1 v2 v3 : Nat) (hv : v2 < 2 ^ 15) :
    (((((u8 (((((v1) &&& 0x3f) <<< 2) ||| ((v2 >>> 13) &&& 0x3))))) &&& 0x3)) <<< 13) ||| ((((u8 (((v2 >>> 5) &&& 0xff))))) <<< 5) ||| ((((u8 (((((v2) &&& 0x1f) <<< 3) ||| ((v3 >>> 12) &&& 0x7)))) >>> 3) &&& 0x1f)) = v2 := by
  rw [step_first (((v1) &&& 0x3f)) v2 15 13 2 3 rfl rfl (by norm_num) hv]
  rw [step_mid v2 13 5 rfl]
  rw [step_last v2 (((v3 >>> 12) &&& 0x7)) 3 5 31 rfl rfl
    (Nat.and_lt_two_pow _ (by norm_num))]

theorem upb15_c3 (v2 v3 v4 : Nat) (hv : v3 < 2 ^ 15) :
    (((((u8 (((((v2) &&& 0x1f) <<< 3) ||| ((v3 >>> 12) &&& 0x7))))) &&& 0x7)) <<< 12) ||| ((((u8 (((v3 >>> 4) &&& 0xff))))) <<< 4) ||| ((((u8 (((((v3) &&& 0xf) <<< 4) ||| ((v4 >>> 11) &&& 0xf)))) >>> 4) &&& 0xf)) = v3 := by
  rw [step_first (((v2) &&& 0x1f)) v3 15 12 3 7 rfl rfl (by norm_num) hv]
  rw [step_mid v3 12 4 rfl]
  rw [step_last v3 (((v4 >>> 11) &&& 0xf)) 4 4 15 rfl rfl
    (Nat.and_lt_two_pow _ (by norm_num))]

theorem upb15_c4 (v3 v4 v5 : Nat) (hv : v4 < 2 ^ 15) :
    (((((u8 (((((v3) &&& 0xf) <<< 4) ||| ((v4 >>> 11) &&& 0xf))))) &&& 0xf)) <<< 11) ||| ((((u8 (((v4 >>> 3) &&& 0xff))))) <<< 3) ||| ((((u8 (((((v4) &&& 0x7) <<< 5) ||| ((v5 >>> 10) &&& 0x1f)))) >>> 5) &&& 0x7)) = v4 := by
  rw [step_first (((v3) &&& 0xf)) v4 15 11 4 15 rfl rfl (by norm_num) hv]
  rw [step_mid v4 11 3 rfl]
  rw [step_last v4 (((v5 >>> 10) &&& 0x1f)) 5 3 7 rfl rfl
    (Nat.and_lt_two_pow _ (by norm_num))]

theorem upb15_c5 (v4 v5 v6 : Nat) (hv : v5 < 2 ^ 15) :
    (((((u8 (((((v4) &&& 0x7) <<< 5) ||| ((v5 >>> 10) &&& 0x1f))))) &&& 0x1f)) <<< 10) ||| ((((u8 (((v5 >>> 2) &&& 0xff))))) <<< 2) ||| ((((u8 (((((v5) &&& 0x3) <<< 6) ||| ((v6 >>> 9) &&& 0x3f)))) >>> 6) &&& 0x3)) = v5 := by
  rw [step_first (((v4) &&& 0x7)) v5 15 10 5 31 rfl rfl (by norm_num) hv]
  rw [step_mid v5 10 2 rfl]
  rw [step_last v5 (((v6 >>> 9) &&& 0x3f)) 6 2 3 rfl rfl
    (Nat.and_lt_two_pow _ (by norm_num))]

theorem upb15_c6 (v5 v6 v7 : Nat) (hv : v6 < 2 ^ 15) :
    (((((u8 (((((v5) &&& 0x3) <<< 6) ||| ((v6 >>> 9) &&& 0x3f))))) &&& 0x3f)) <<< 9) ||| ((((u8 (((v6 >>> 1) &&& 0xff))))) <<< 1) ||| ((((u8 (((((v6) &&& 0x1) <<< 7) ||| ((v7 >>> 8) &&& 0x7f)))) >>> 7) &&& 0x1)) = v6 := by
  rw [step_first (((v5) &&& 0x3)) v6 15 9 6 63 rfl rfl (by norm_num) hv]
  rw [step_mid v6 9 1 rfl]
  rw [step_last v6 (((v7 >>> 8) &&& 0x7f)) 7 1 1 rfl rfl
    (Nat.and_lt_two_pow _ (by norm_num))]

theorem upb15_c7 (v6 v7 : Nat) (hv : v7 < 2 ^ 15) :
    (((((u8 (((((v6) &&& 0x1) <<< 7) ||| ((v7 >>> 8) &&& 0x7f))))) &&& 0x7f)) <<< 8) ||| (((u8 (((v7) &&& 0xff))))) = v7 := by
  rw [step_first (((v6) &&& 0x1)) v7 15 8 7 127 rfl rfl (by norm_num) hv]
  rw [step_low v7]

theorem unpack_pack_bits_15 (v0 v1 v2 v3 v4 v5 v6 v7 : Nat)
    (h0 : v0 < 2 ^ 15) (h1 : v1 < 2 ^ 15) (h2 : v2 < 2 ^ 15) (h3 : v3 < 2 ^ 15) (h4 : v4 < 2 ^ 15) (h5 : v5 < 2 ^ 15) (h6 : v6 < 2 ^ 15) (h7 : v7 < 2 ^ 15) :
    unpack_bits_15 (pack_bits_15 v0 v1 v2 v3 v4 v5 v6 v7) =
      [v0, v1, v2, v3, v4, v5, v6, v7] := by
  have key : unpack_bits_15 (pack_bits_15 v0 v1 v2 v3 v4 v5 v6 v7) =
      [ ((((u8 (((v0 >>> 7) &&& 0xff))))) <<< 7) ||| ((((u8 (((((v0) &&& 0x7f) <<< 1) ||| ((v1 >>> 14) &&& 0x1)))) >>> 1) &&& 0x7f)),
        (((((u8 (((((v0) &&& 0x7f) <<< 1) ||| ((v1 >>> 14) &&& 0x1))))) &&& 0x1)) <<< 14) ||| ((((u8 (((v1 >>> 6) &&& 0xff))))) <<< 6) ||| ((((u8 (((((v1) &&& 0x3f) <<< 2) ||| ((v2 >>> 13) &&& 0x3)))) >>> 2) &&& 0x3f)),
        (((((u8 (((((v1) &&& 0x3f) <<< 2) ||| ((v2 >>> 13) &&& 0x3))))) &&& 0x3)) <<< 13) ||| ((((u8 (((v2 >>> 5) &&& 0xff))))) <<< 5) ||| ((((u8 (((((v2) &&& 0x1f) <<< 3) ||| ((v3 >>> 12) &&& 0x7)))) >>> 3) &&& 0x1f)),
        (((((u8 (((((v2) &&& 0x1f) <<< 3) ||| ((v3 >>> 12) &&& 0x7))))) &&& 0x7)) <<< 12) ||| ((((u8 (((v3 >>> 4) &&& 0xff))))) <<< 4) ||| ((((u8 (((((v3) &&& 0xf) <<< 4) ||| ((v4 >>> 11) &&& 0xf)))) >>> 4) &&& 0xf)),
        (((((u8 (((((v3) &&& 0xf) <<< 4) ||| ((v4 >>> 11) &&& 0xf))))) &&& 0xf)) <<< 11) ||| ((((u8 (((v4 >>> 3) &&& 0xff))))) <<< 3) ||| ((((u8 (((((v4) &&& 0x7) <<< 5) ||| ((v5 >>> 10) &&& 0x1f)))) >>> 5) &&& 0x7)),
        (((((u8 (((((v4) &&& 0x7) <<< 5) ||| ((v5 >>> 10) &&& 0x1f))))) &&& 0x1f)) <<< 10) ||| ((((u8 (((v5 >>> 2) &&& 0xff))))) <<< 2) ||| ((((u8 (((((v5) &&& 0x3) <<< 6) ||| ((v6 >>> 9) &&& 0x3f)))) >>> 6) &&& 0x3)),
        (((((u8 (((((v5) &&& 0x3) <<< 6) ||| ((v6 >>> 9) &&& 0x3f))))) &&& 0x3f)) <<< 9) ||| ((((u8 (((v6 >>> 1) &&& 0xff))))) <<< 1) ||| ((((u8 (((((v6) &&& 0x1) <<< 7) ||| ((v7 >>> 8) &&& 0x7f)))) >>> 7) &&& 0x1)),
        (((((u8 (((((v6) &&& 0x1) <<< 7) ||| ((v7 >>> 8) &&& 0x7f))))) &&& 0x7f)) <<< 8) ||| (((u8 (((v7) &&& 0xff))))) ] := rfl
  rw [key]
  rw [upb15_c0 v0 v1 h0,
    upb15_c1 v0 v1 v2 h1,
    upb15_c2 v1 v2 v3 h2,
    upb15_c3 v2 v3 v4 h3,
    upb15_c4 v3 v4 v5 h4,
    upb15_c5 v4 v5 v6 h5,
    upb15_c6 v5 v6 v7 h6,
    upb15_c7 v6 v7 h7]

theorem upb16_c0 (v0 : Nat) (hv : v0 < 2 ^ 16) :
    ((((u8 (((v0 >>> 8) &&& 0xff))))) <<< 8) ||| (((u8 (((v0) &&& 0xff))))) = v0 := by
  rw [step_top v0 16 8 rfl hv]
  rw [step_low v0]

theorem upb16_c1 (v1 : Nat) (hv : v1 < 2 ^ 16) :
    ((((u8 (((v1 >>> 8) &&& 0xff))))) <<< 8) ||| (((u8 (((v1) &&& 0xff))))) = v1 := by
  rw [step_top v1 16 8 rfl hv]
  rw [step_low v1]

theorem upb16_c2 (v2 : Nat) (hv : v2 < 2 ^ 16) :
    ((((u8 (((v2 >>> 8) &&& 0xff))))) <<< 8) ||| (((u8 (((v2) &&& 0xff))))) = v2 := by
  rw [step_top v2 16 8 rfl hv]
  rw [step_low v2]

theorem upb16_c3 (v3 : Nat) (hv : v3 < 2 ^ 16) :
    ((((u8 (((v3 >>> 8) &&& 0xff))))) <<< 8) ||| (((u8 (((v3) &&& 0xff))))) = v3 := by
  rw [step_top v3 16 8 rfl hv]
  rw [step_low v3]

theorem upb16_c4 (v4 : Nat) (hv : v4 < 2 ^ 16) :
    ((((u8 (((v4 >>> 8) &&& 0xff))))) <<< 8) ||| (((u8 (((v4) &&& 0xff))))) = v4 := by
  rw [step_top v4 16 8 rfl hv]
  rw [step_low v4]

theorem upb16_c5 (v5 : Nat) (hv : v5 < 2 ^ 16) :
    ((((u8 (((v5 >>> 8) &&& 0xff))))) <<< 8) ||| (((u8 (((v5) &&& 0xff))))) = v5 := by
  rw [step_top v5 16 8 rfl hv]
  rw [step_low v5]

theorem upb16_c6 (v6 : Nat) (hv : v6 < 2 ^ 16) :
    ((((u8 (((v6 >>> 8) &&& 0xff))))) <<< 8) ||| (((u8 (((v6) &&& 0xff))))) = v6 := by
  rw [step_top v6 16 8 rfl hv]
  rw [step_low v6]

theorem upb16_c7 (v7 : Nat) (hv : v7 < 2 ^ 16) :
    ((((u8 (((v7 >>> 8) &&& 0xff))))) <<< 8) ||| (((u8 (((v7) &&& 0xff))))) = v7 := by
  rw [step_top v7 16 8 rfl hv]
  rw [step_low v7]

theorem unpack_pack_bits_16 (v0 v1 v2 v3 v4 v5 v6 v7 : Nat)
    (h0 : v0 < 2 ^ 16) (h1 : v1 < 2 ^ 16) (h2 : v2 < 2 ^ 16) (h3 : v3 < 2 ^ 16) (h4 : v4 < 2 ^ 16) (h5 : v5 < 2 ^ 16) (h6 : v6 < 2 ^ 16) (h7 : v7 < 2 ^ 16) :
    unpack_bits_16 (pack_bits_16 v0 v1 v2 v3 v4 v5 v6 v7) =
      [v0, v1, v2, v3, v4, v5, v6, v7] := by
  have key : unpack_bits_16 (pack_bits_16 v0 v1 v2 v3 v4 v5 v6 v7) =
      [ ((((u8 (((v0 >>> 8) &&& 0xff))))) <<< 8) ||| (((u8 (((v0) &&& 0xff))))),
        ((((u8 (((v1 >>> 8) &&& 0xff))))) <<< 8) ||| (((u8 (((v1) &&& 0xff))))),
        ((((u8 (((v2 >>> 8) &&& 0xff))))) <<< 8) ||| (((u8 (((v2) &&& 0xff))))),
        ((((u8 (((v3 >>> 8) &&& 0xff))))) <<< 8) ||| (((u8 (((v3) &&& 0xff))))),
        ((((u8 (((v4 >>> 8) &&& 0xff))))) <<< 8) ||| (((u8 (((v4) &&& 0xff))))),
        ((((u8 (((v5 >>> 8) &&& 0xff))))) <<< 8) ||| (((u8 (((v5) &&& 0xff))))),
        ((((u8 (((v6 >>> 8) &&& 0xff))))) <<< 8) ||| (((u8 (((v6) &&& 0xff))))),
        ((((u8 (((v7 >>> 8) &&& 0xff))))) <<< 8) ||| (((u8 (((v7) &&& 0xff))))) ] := rfl
  rw [key]
  rw [upb16_c0 v0 h0,
    upb16_c1 v1 h1,
    upb16_c2 v2 h2,
    upb16_c3 v3 h3,
    upb16_c4 v4 h4,
    upb16_c5 v5 h5,
    upb16_c6 v6 h6,
    upb16_c7 v7 h7]

theorem upb17_c0 (v0 v1 : Nat) (hv : v0 < 2 ^ 17) :
    ((((u8 (((v0 >>> 9) &&& 0xff))))) <<< 9) ||| ((((u8 (((v0 >>> 1) &&& 0xff))))) <<< 1) ||| ((((u8 (((((v0) &&& 0x1) <<< 7) ||| ((v1 >>> 10) &&& 0x7f)))) >>> 7) &&& 0x1)) = v0 := by
  rw [step_top v0 17 9 rfl hv]
  rw [step_mid v0 9 1 rfl]
  rw [step_last v0 (((v1 >>> 10) &&& 0x7f)) 7 1 1 rfl rfl
    (Nat.and_lt_two_pow _ (by norm_num))]

theorem upb17_c1 (v0 v1 v2 : Nat) (hv : v1 < 2 ^ 17) :
    (((((u8 (((((v0) &&& 0x1) <<< 7) ||| ((v1 >>> 10) &&& 0x7f))))) &&& 0x7f)) <<< 10) ||| ((((u8 (((v1 >>> 2) &&& 0xff))))) <<< 2) ||| ((((u8 (((((v1) &&& 0x3) <<< 6) ||| ((v2 >>> 11) &&& 0x3f)))) >>> 6) &&& 0x3)) = v1 := by
  rw [step_first (((v0) &&& 0x1)) v1 17 10 7 127 rfl rfl (by norm_num) hv]
  rw [step_mid v1 10 2 rfl]
  rw [step_last v1 (((v2 >>> 11) &&& 0x3f)) 6 2 3 rfl rfl
    (Nat.and_lt_two_pow _ (by norm_num))]

theorem upb17_c2 (v1 v2 v3 : Nat) (hv : v2 < 2 ^ 17) :
    (((((u8 (((((v1) &&& 0x3) <<< 6) ||| ((v2 >>> 11) &&& 0x3f))))) &&& 0x3f)) <<< 11) ||| ((((u8 (((v2 >>> 3) &&& 0xff))))) <<< 3) ||| ((((u8 (((((v2) &&& 0x7) <<< 5) ||| ((v3 >>> 12) &&& 0x1f)))) >>> 5) &&& 0x7)) = v2 := by
  rw [step_first (((v1) &&& 0x3)) v2 17 11 6 63 rfl rfl (by norm_num) hv]
  rw [step_mid v2 11 3 rfl]
  rw [step_last v2 (((v3 >>> 12) &&& 0x1f)) 5 3 7 rfl rfl
    (Nat.and_lt_two_pow _ (by norm_num))]

theorem upb17_c3 (v2 v3 v4 : Nat) (hv : v3 < 2 ^ 17) :
    (((((u8 (((((v2) &&& 0x7) <<< 5) ||| ((v3 >>> 12) &&& 0x1f))))) &&& 0x1f)) <<< 12) ||| ((((u8 (((v3 >>> 4) &&& 0xff))))) <<< 4) ||| ((((u8 (((((v3) &&& 0xf) <<< 4) ||| ((v4 >>> 13) &&& 0xf)))) >>> 4) &&& 0xf)) = v3 := by
  rw [step_first (((v2) &&& 0x7)) v3 17 12 5 31 rfl rfl (by norm_num) hv]
  rw [step_mid v3 12 4 rfl]
  rw [step_last v3 (((v4 >>> 13) &&& 0xf)) 4 4 15 rfl rfl
    (Nat.and_lt_two_pow _ (by norm_num))]

theorem upb17_c4 (v3 v4 v5 : Nat) (hv : v4 < 2 ^ 17) :
    (((((u8 (((((v3) &&& 0xf) <<< 4) ||| ((v4 >>> 13) &&& 0xf))))) &&& 0xf)) <<< 13) ||| ((((u8 (((v4 >>> 5) &&& 0xff))))) <<< 5) ||| ((((u8 (((((v4) &&& 0x1f) <<< 3) ||| ((v5 >>> 14) &&& 0x7)))) >>> 3) &&& 0x1f)) = v4 := by
  rw [step_first (((v3) &&& 0xf)) v4 17 13 4 15 rfl rfl (by norm_num) hv]
  rw [step_mid v4 13 5 rfl]
  rw [step_last v4 (((v5 >>> 14) &&& 0x7)) 3 5 31 rfl rfl
    (Nat.and_lt_two_pow _ (by norm_num))]

theorem upb17_c5 (v4 v5 v6 : Nat) (hv : v5 < 2 ^ 17) :
    (((((u8 (((((v4) &&& 0x1f) <<< 3) ||| ((v5 >>> 14) &&& 0x7))))) &&& 0x7)) <<< 14) ||| ((((u8 (((v5 >>> 6) &&& 0xff))))) <<< 6) ||| ((((u8 (((((v5) &&& 0x3f) <<< 2) ||| ((v6 >>> 15) &&& 0x3)))) >>> 2) &&& 0x3f)) = v5 := by
  rw [step_first (((v4) &&& 0x1f)) v5 17 14 3 7 rfl rfl (by norm_num) hv]
  rw [step_mid v5 14 6 rfl]
  rw [step_last v5 (((v6 >>> 15) &&& 0x3)) 2 6 63 rfl rfl
    (Nat.and_lt_two_pow _ (by norm_num))]

theorem upb17_c6 (v5 v6 v7 : Nat) (hv : v6 < 2 ^ 17) :
    (((((u8 (((((v5) &&& 0x3f) <<< 2) ||| ((v6 >>> 15) &&& 0x3))))) &&& 0x3)) <<< 15) ||| ((((u8 (((v6 >>> 7) &&& 0xff))))) <<< 7) ||| ((((u8 (((((v6) &&& 0x7f) <<< 1) ||| ((v7 >>> 16) &&& 0x1)))) >>> 1) &&& 0x7f)) = v6 := by
  rw [step_first (((v5) &&& 0x3f)) v6 17 15 2 3 rfl rfl (by norm_num) hv]
  rw [step_mid v6 15 7 rfl]
  rw [step_last v6 (((v7 >>> 16) &&& 0x1)) 1 7 127 rfl rfl
    (Nat.and_lt_two_pow _ (by norm_num))]

theorem upb17_c7 (v6 v7 : Nat) (hv : v7 < 2 ^ 17) :
    (((((u8 (((((v6) &&& 0x7f) <<< 1) ||| ((v7 >>> 16) &&& 0x1))))) &&& 0x1)) <<< 16) ||| ((((u8 (((v7 >>> 8) &&& 0xff))))) <<< 8) ||| (((u8 (((v7) &&& 0xff))))) = v7 := by
  rw [step_first (((v6) &&& 0x7f)) v7 17 16 1 1 rfl rfl (by norm_num) hv]
  rw [step_mid v7 16 8 rfl]
  rw [step_low v7]

theorem unpack_pack_bits_17 (v0 v1 v2 v3 v4 v5 v6 v7 : Nat)
    (h0 : v0 < 2 ^ 17) (h1 : v1 < 2 ^ 17) (h2 : v2 < 2 ^ 17) (h3 : v3 < 2 ^ 17) (h4 : v4 < 2 ^ 17) (h5 : v5 < 2 ^ 17) (h6 : v6 < 2 ^ 17) (h7 : v7 < 2 ^ 17) :
    unpack_bits_17 (pack_bits_17 v0 v1 v2 v3 v4 v5 v6 v7) =
      [v0, v1, v2, v3, v4, v5, v6, v7] := by
  have key : unpack_bits_17 (pack_bits_17 v0 v1 v2 v3 v4 v5 v6 v7) =
      [ ((((u8 (((v0 >>> 9) &&& 0xff))))) <<< 9) ||| ((((u8 (((v0 >>> 1) &&& 0xff))))) <<< 1) ||| ((((u8 (((((v0) &&& 0x1) <<< 7) ||| ((v1 >>> 10) &&& 0x7f)))) >>> 7) &&& 0x1)),
        (((((u8 (((((v0) &&& 0x1) <<< 7) ||| ((v1 >>> 10) &&& 0x7f))))) &&& 0x7f)) <<< 10) ||| ((((u8 (((v1 >>> 2) &&& 0xff))))) <<< 2) ||| ((((u8 (((((v1) &&& 0x3) <<< 6) ||| ((v2 >>> 11) &&& 0x3f)))) >>> 6) &&& 0x3)),
        (((((u8 (((((v1) &&& 0x3) <<< 6) ||| ((v2 >>> 11) &&& 0x3f))))) &&& 0x3f)) <<< 11) ||| ((((u8 (((v2 >>> 3) &&& 0xff))))) <<< 3) ||| ((((u8 (((((v2) &&& 0x7) <<< 5) ||| ((v3 >>> 12) &&& 0x1f)))) >>> 5) &&& 0x7)),
        (((((u8 (((((v2) &&& 0x7) <<< 5) ||| ((v3 >>> 12) &&& 0x1f))))) &&& 0x1f)) <<< 12) ||| ((((u8 (((v3 >>> 4) &&& 0xff))))) <<< 4) ||| ((((u8 (((((v3) &&& 0xf) <<< 4) ||| ((v4 >>> 13) &&& 0xf)))) >>> 4) &&& 0xf)),
        (((((u8 (((((v3) &&& 0xf) <<< 4) ||| ((v4 >>> 13) &&& 0xf))))) &&& 0xf)) <<< 13) ||| ((((u8 (((v4 >>> 5) &&& 0xff))))) <<< 5) ||| ((((u8 (((((v4) &&& 0x1f) <<< 3) ||| ((v5 >>> 14) &&& 0x7)))) >>> 3) &&& 0x1f)),
        (((((u8 (((((v4) &&& 0x1f) <<< 3) ||| ((v5 >>> 14) &&& 0x7))))) &&& 0x7)) <<< 14) ||| ((((u8 (((v5 >>> 6) &&& 0xff))))) <<< 6) ||| ((((u8 (((((v5) &&& 0x3f) <<< 2) ||| ((v6 >>> 15) &&& 0x3)))) >>> 2) &&& 0x3f)),
        (((((u8 (((((v5) &&& 0x3f) <<< 2) ||| ((v6 >>> 15) &&& 0x3))))) &&& 0x3)) <<< 15) ||| ((((u8 (((v6 >>> 7) &&& 0xff))))) <<< 7) ||| ((((u8 (((((v6) &&& 0x7f) <<< 1) ||| ((v7 >>> 16) &&& 0x1)))) >>> 1) &&& 0x7f)),
        (((((u8 (((((v6) &&& 0x7f) <<< 1) ||| ((v7 >>> 16) &&& 0x1))))) &&& 0x1)) <<< 16) ||| ((((u8 (((v7 >>> 8) &&& 0xff))))) <<< 8) ||| (((u8 (((v7) &&& 0xff))))) ] := rfl
  rw [key]
  rw [upb17_c0 v0 v1 h0,
    upb17_c1 v0 v1 v2 h1,
    upb17_c2 v1 v2 v3 h2,
    upb17_c3 v2 v3 v4 h3,
    upb17_c4 v3 v4 v5 h4,
    upb17_c5 v4 v5 v6 h5,
    upb17_c6 v5 v6 v7 h6,
    upb17_c7 v6 v7 h7]

theorem upb18_c0 (v0 v1 : Nat) (hv : v0 < 2 ^ 18) :
    ((((u8 (((v0 >>> 10) &&& 0xff))))) <<< 10) ||| ((((u8 (((v0 >>> 2) &&& 0xff))))) <<< 2) ||| ((((u8 (((((v0) &&& 0x3) <<< 6) ||| ((v1 >>> 12) &&& 0x3f)))) >>> 6) &&& 0x3)) = v0 := by
  rw [step_top v0 18 10 rfl hv]
  rw [step_mid v0 10 2 rfl]
  rw [step_last v0 (((v1 >>> 12) &&& 0x3f)) 6 2 3 rfl rfl
    (Nat.and_lt_two_pow _ (by norm_num))]

theorem upb18_c1 (v0 v1 v2 : Nat) (hv : v1 < 2 ^ 18) :
    (((((u8 (((((v0) &&& 0x3) <<< 6) ||| ((v1 >>> 12) &&& 0x3f))))) &&& 0x3f)) <<< 12) ||| ((((u8 (((v1 >>> 4) &&& 0xff))))) <<< 4) ||| ((((u8 (((((v1) &&& 0xf) <<< 4) ||| ((v2 >>> 14) &&& 0xf)))) >>> 4) &&& 0xf)) = v1 := by
  rw [step_first (((v0) &&& 0x3)) v1 18 12 6 63 rfl rfl (by norm_num) hv]
  rw [step_mid v1 12 4 rfl]
  rw [step_last v1 (((v2 >>> 14) &&& 0xf)) 4 4 15 rfl rfl
    (Nat.and_lt_two_pow _ (by norm_num))]

theorem upb18_c2 (v1 v2 v3 : Nat) (hv : v2 < 2 ^ 18) :
    (((((u8 (((((v1) &&& 0xf) <<< 4) ||| ((v2 >>> 14) &&& 0xf))))) &&& 0xf)) <<< 14) ||| ((((u8 (((v2 >>> 6) &&& 0xff))))) <<< 6) ||| ((((u8 (((((v2) &&& 0x3f) <<< 2) ||| ((v3 >>> 16) &&& 0x3)))) >>> 2) &&& 0x3f)) = v2 := by
  rw [step_first (((v1) &&& 0xf)) v2 18 14 4 15 rfl rfl (by norm_num) hv]
  rw [step_mid v2 14 6 rfl]
  rw [step_last v2 (((v3 >>> 16) &&& 0x3)) 2 6 63 rfl rfl
    (Nat.and_lt_two_pow _ (by norm_num))]

theorem upb18_c3 (v2 v3 : Nat) (hv : v3 < 2 ^ 18) :
    (((((u8 (((((v2) &&& 0x3f) <<< 2) ||| ((v3 >>> 16) &&& 0x3))))) &&& 0x3)) <<< 16) ||| ((((u8 (((v3 >>> 8) &&& 0xff))))) <<< 8) ||| (((u8 (((v3) &&& 0xff))))) = v3 := by
  rw [step_first (((v2) &&& 0x3f)) v3 18 16 2 3 rfl rfl (by norm_num) hv]
  rw [step_mid v3 16 8 rfl]
  rw [step_low v3]

theorem upb18_c4 (v4 v5 : Nat) (hv : v4 < 2 ^ 18) :
    ((((u8 (((v4 >>> 10) &&& 0xff))))) <<< 10) ||| ((((u8 (((v4 >>> 2) &&& 0xff))))) <<< 2) ||| ((((u8 (((((v4) &&& 0x3) <<< 6) ||| ((v5 >>> 12) &&& 0x3f)))) >>> 6) &&& 0x3)) = v4 := by
  rw [step_top v4 18 10 rfl hv]
  rw [step_mid v4 10 2 rfl]
  rw [step_last v4 (((v5 >>> 12) &&& 0x3f)) 6 2 3 rfl rfl
    (Nat.and_lt_two_pow _ (by norm_num))]

theorem upb18_c5 (v4 v5 v6 : Nat) (hv : v5 < 2 ^ 18) :
    (((((u8 (((((v4) &&& 0x3) <<< 6) ||| ((v5 >>> 12) &&& 0x3f))))) &&& 0x3f)) <<< 12) ||| ((((u8 (((v5 >>> 4) &&& 0xff))))) <<< 4) ||| ((((u8 (((((v5) &&& 0xf) <<< 4) ||| ((v6 >>> 14) &&& 0xf)))) >>> 4) &&& 0xf)) = v5 := by
  rw [step_first (((v4) &&& 0x3)) v5 18 12 6 63 rfl rfl (by norm_num) hv]
  rw [step_mid v5 12 4 rfl]
  rw [step_last v5 (((v6 >>> 14) &&& 0xf)) 4 4 15 rfl rfl
    (Nat.and_lt_two_pow _ (by norm_num))]

theorem upb18_c6 (v5 v6 v7 : Nat) (hv : v6 < 2 ^ 18) :
    (((((u8 (((((v5) &&& 0xf) <<< 4) ||| ((v6 >>> 14) &&& 0xf))))) &&& 0xf)) <<< 14) ||| ((((u8 (((v6 >>> 6) &&& 0xff))))) <<< 6) ||| ((((u8 (((((v6) &&& 0x3f) <<< 2) ||| ((v7 >>> 16) &&& 0x3)))) >>> 2) &&& 0x3f)) = v6 := by
  rw [step_first (((v5) &&& 0xf)) v6 18 14 4 15 rfl rfl (by norm_num) hv]
  rw [step_mid v6 14 6 rfl]
  rw [step_last v6 (((v7 >>> 16) &&& 0x3)) 2 6 63 rfl rfl
    (Nat.and_lt_two_pow _ (by norm_num))]

theorem upb18_c7 (v6 v7 : Nat) (hv : v7 < 2 ^ 18) :
    (((((u8 (((((v6) &&& 0x3f) <<< 2) ||| ((v7 >>> 16) &&& 0x3))))) &&& 0x3)) <<< 16) ||| ((((u8 (((v7 >>> 8) &&& 0xff))))) <<< 8) ||| (((u8 (((v7) &&& 0xff))))) = v7 := by
  rw [step_first (((v6) &&& 0x3f)) v7 18 16 2 3 rfl rfl (by norm_num) hv]
  rw [step_mid v7 16 8 rfl]
  rw [step_low v7]

theorem unpack_pack_bits_18 (v0 v1 v2 v3 v4 v5 v6 v7 : Nat)
    (h0 : v0 < 2 ^ 18) (h1 : v1 < 2 ^ 18) (h2 : v2 < 2 ^ 18) (h3 : v3 < 2 ^ 18) (h4 : v4 < 2 ^ 18) (h5 : v5 < 2 ^ 18) (h6 : v6 < 2 ^ 18) (h7 : v7 < 2 ^ 18) :
    unpack_bits_18 (pack_bits_18 v0 v1 v2 v3 v4 v5 v6 v7) =
      [v0, v1, v2, v3, v4, v5, v6, v7] := by
  have key : unpack_bits_18 (pack_bits_18 v0 v1 v2 v3 v4 v5 v6 v7) =
      [ ((((u8 (((v0 >>> 10) &&& 0xff))))) <<< 10) ||| ((((u8 (((v0 >>> 2) &&& 0xff))))) <<< 2) ||| ((((u8 (((((v0) &&& 0x3) <<< 6) ||| ((v1 >>> 12) &&& 0x3f)))) >>> 6) &&& 0x3)),
        (((((u8 (((((v0) &&& 0x3) <<< 6) ||| ((v1 >>> 12) &&& 0x3f))))) &&& 0x3f)) <<< 12) ||| ((((u8 (((v1 >>> 4) &&& 0xff))))) <<< 4) ||| ((((u8 (((((v1) &&& 0xf) <<< 4) ||| ((v2 >>> 14) &&& 0xf)))) >>> 4) &&& 0xf)),
        (((((u8 (((((v1) &&& 0xf) <<< 4) ||| ((v2 >>> 14) &&& 0xf))))) &&& 0xf)) <<< 14) ||| ((((u8 (((v2 >>> 6) &&& 0xff))))) <<< 6) ||| ((((u8 (((((v2) &&& 0x3f) <<< 2) ||| ((v3 >>> 16) &&& 0x3)))) >>> 2) &&& 0x3f)),
        (((((u8 (((((v2) &&& 0x3f) <<< 2) ||| ((v3 >>> 16) &&& 0x3))))) &&& 0x3)) <<< 16) ||| ((((u8 (((v3 >>> 8) &&& 0xff))))) <<< 8) ||| (((u8 (((v3) &&& 0xff))))),
        ((((u8 (((v4 >>> 10) &&& 0xff))))) <<< 10) ||| ((((u8 (((v4 >>> 2) &&& 0xff))))) <<< 2) ||| ((((u8 (((((v4) &&& 0x3) <<< 6) ||| ((v5 >>> 12) &&& 0x3f)))) >>> 6) &&& 0x3)),
        (((((u8 (((((v4) &&& 0x3) <<< 6) ||| ((v5 >>> 12) &&& 0x3f))))) &&& 0x3f)) <<< 12) ||| ((((u8 (((v5 >>> 4) &&& 0xff))))) <<< 4) ||| ((((u8 (((((v5) &&& 0xf) <<< 4) ||| ((v6 >>> 14) &&& 0xf)))) >>> 4) &&& 0xf)),
        (((((u8 (((((v5) &&& 0xf) <<< 4) ||| ((v6 >>> 14) &&& 0xf))))) &&& 0xf)) <<< 14) ||| ((((u8 (((v6 >>> 6) &&& 0xff))))) <<< 6) ||| ((((u8 (((((v6) &&& 0x3f) <<< 2) ||| ((v7 >>> 16) &&& 0x3)))) >>> 2) &&& 0x3f)),
        (((((u8 (((((v6) &&& 0x3f) <<< 2) ||| ((v7 >>> 16) &&& 0x3))))) &&& 0x3)) <<< 16) ||| ((((u8 (((v7 >>> 8) &&& 0xff))))) <<< 8) ||| (((u8 (((v7) &&& 0xff))))) ] := rfl
  rw [key]
  rw [upb18_c0 v0 v1 h0,
    upb18_c1 v0 v1 v2 h1,
    upb18_c2 v1 v2 v3 h2,
    upb18_c3 v2 v3 h3,
    upb18_c4 v4 v5 h4,
    upb18_c5 v4 v5 v6 h5,
    upb18_c6 v5 v6 v7 h6,
    upb18_c7 v6 v7 h7]

theorem upb19_c0 (v0 v1 : Nat) (hv : v0 < 2 ^ 19) :
    ((((u8 (((v0 >>> 11) &&& 0xff))))) <<< 11) ||| ((((u8 (((v0 >>> 3) &&& 0xff))))) <<< 3) ||| ((((u8 (((((v0) &&& 0x7) <<< 5) ||| ((v1 >>> 14) &&& 0x1f)))) >>> 5) &&& 0x7)) = v0 := by
  rw [step_top v0 19 11 rfl hv]
  rw [step_mid v0 11 3 rfl]
  rw [step_last v0 (((v1 >>> 14) &&& 0x1f)) 5 3 7 rfl rfl
    (Nat.and_lt_two_pow _ (by norm_num))]

theorem upb19_c1 (v0 v1 v2 : Nat) (hv : v1 < 2 ^ 19) :
    (((((u8 (((((v0) &&& 0x7) <<< 5) ||| ((v1 >>> 14) &&& 0x1f))))) &&& 0x1f)) <<< 14) ||| ((((u8 (((v1 >>> 6) &&& 0xff))))) <<< 6) ||| ((((u8 (((((v1) &&& 0x3f) <<< 2) ||| ((v2 >>> 17) &&& 0x3)))) >>> 2) &&& 0x3f)) = v1 := by
  rw [step_first (((v0) &&& 0x7)) v1 19 14 5 31 rfl rfl (by norm_num) hv]
  rw [step_mid v1 14 6 rfl]
  rw [step_last v1 (((v2 >>> 17) &&& 0x3)) 2 6 63 rfl rfl
    (Nat.and_lt_two_pow _ (by norm_num))]

theorem upb19_c2 (v1 v2 v3 : Nat) (hv : v2 < 2 ^ 19) :
    (((((u8 (((((v1) &&& 0x3f) <<< 2) ||| ((v2 >>> 17) &&& 0x3))))) &&& 0x3)) <<< 17) ||| ((((u8 (((v2 >>> 9) &&& 0xff))))) <<< 9) ||| ((((u8 (((v2 >>> 1) &&& 0xff))))) <<< 1) ||| ((((u8 (((((v2) &&& 0x1) <<< 7) ||| ((v3 >>> 12) &&& 0x7f)))) >>> 7) &&& 0x1)) = v2 := by
  rw [step_first (((v1) &&& 0x3f)) v2 19 17 2 3 rfl rfl (by norm_num) hv]
  rw [step_mid v2 17 9 rfl]
  rw [step_mid v2 9 1 rfl]
  rw [step_last v2 (((v3 >>> 12) &&& 0x7f)) 7 1 1 rfl rfl
    (Nat.and_lt_two_pow _ (by norm_num))]

theorem upb19_c3 (v2 v3 v4 : Nat) (hv : v3 < 2 ^ 19) :
    (((((u8 (((((v2) &&& 0x1) <<< 7) ||| ((v3 >>> 12) &&& 0x7f))))) &&& 0x7f)) <<< 12) ||| ((((u8 (((v3 >>> 4) &&& 0xff))))) <<< 4) ||| ((((u8 (((((v3) &&& 0xf) <<< 4) ||| ((v4 >>> 15) &&& 0xf)))) >>> 4) &&& 0xf)) = v3 := by
  rw [step_first (((v2) &&& 0x1)) v3 19 12 7 127 rfl rfl (by norm_num) hv]
  rw [step_mid v3 12 4 rfl]
  rw [step_last v3 (((v4 >>> 15) &&& 0xf)) 4 4 15 rfl rfl
    (Nat.and_lt_two_pow _ (by norm_num))]

theorem upb19_c4 (v3 v4 v5 : Nat) (hv : v4 < 2 ^ 19) :
    (((((u8 (((((v3) &&& 0xf) <<< 4) ||| ((v4 >>> 15) &&& 0xf))))) &&& 0xf)) <<< 15) ||| ((((u8 (((v4 >>> 7) &&& 0xff))))) <<< 7) ||| ((((u8 (((((v4) &&& 0x7f) <<< 1) ||| ((v5 >>> 18) &&& 0x1)))) >>> 1) &&& 0x7f)) = v4 := by
  rw [step_first (((v3) &&& 0xf)) v4 19 15 4 15 rfl rfl (by norm_num) hv]
  rw [step_mid v4 15 7 rfl]
  rw [step_last v4 (((v5 >>> 18) &&& 0x1)) 1 7 127 rfl rfl
    (Nat.and_lt_two_pow _ (by norm_num))]

theorem upb19_c5 (v4 v5 v6 : Nat) (hv : v5 < 2 ^ 19) :
    (((((u8 (((((v4) &&& 0x7f) <<< 1) ||| ((v5 >>> 18) &&& 0x1))))) &&& 0x1)) <<< 18) ||| ((((u8 (((v5 >>> 10) &&& 0xff))))) <<< 10) ||| ((((u8 (((v5 >>> 2) &&& 0xff))))) <<< 2) ||| ((((u8 (((((v5) &&& 0x3) <<< 6) ||| ((v6 >>> 13) &&& 0x3f)))) >>> 6) &&& 0x3)) = v5 := by
  rw [step_first (((v4) &&& 0x7f)) v5 19 18 1 1 rfl rfl (by norm_num) hv]
  rw [step_mid v5 18 10 rfl]
  rw [step_mid v5 10 2 rfl]
  rw [step_last v5 (((v6 >>> 13) &&& 0x3f)) 6 2 3 rfl rfl
    (Nat.and_lt_two_pow _ (by norm_num))]

theorem upb19_c6 (v5 v6 v7 : Nat) (hv : v6 < 2 ^ 19) :
    (((((u8 (((((v5) &&& 0x3) <<< 6) ||| ((v6 >>> 13) &&& 0x3f))))) &&& 0x3f)) <<< 13) ||| ((((u8 (((v6 >>> 5) &&& 0xff))))) <<< 5) ||| ((((u8 (((((v6) &&& 0x1f) <<< 3) ||| ((v7 >>> 16) &&& 0x7)))) >>> 3) &&& 0x1f)) = v6 := by
  rw [step_first (((v5) &&& 0x3)) v6 19 13 6 63 rfl rfl (by norm_num) hv]
  rw [step_mid v6 13 5 rfl]
  rw [step_last v6 (((v7 >>> 16) &&& 0x7)) 3 5 31 rfl rfl
    (Nat.and_lt_two_pow _ (by norm_num))]

theorem upb19_c7 (v6 v7 : Nat) (hv : v7 < 2 ^ 19) :
    (((((u8 (((((v6) &&& 0x1f) <<< 3) ||| ((v7 >>> 16) &&& 0x7))))) &&& 0x7)) <<< 16) ||| ((((u8 (((v7 >>> 8) &&& 0xff))))) <<< 8) ||| (((u8 (((v7) &&& 0xff))))) = v7 := by
  rw [step_first (((v6) &&& 0x1f)) v7 19 16 3 7 rfl rfl (by norm_num) hv]
  rw [step_mid v7 16 8 rfl]
  rw [step_low v7]

theorem unpack_pack_bits_19 (v0 v1 v2 v3 v4 v5 v6 v7 : Nat)
    (h0 : v0 < 2 ^ 19) (h1 : v1 < 2 ^ 19) (h2 : v2 < 2 ^ 19) (h3 : v3 < 2 ^ 19) (h4 : v4 < 2 ^ 19) (h5 : v5 < 2 ^ 19) (h6 : v6 < 2 ^ 19) (h7 : v7 < 2 ^ 19) :
    unpack_bits_19 (pack_bits_19 v0 v1 v2 v3 v4 v5 v6 v7) =
      [v0, v1, v2, v3, v4, v5, v6, v7] := by
  have key : unpack_bits_19 (pack_bits_19 v0 v1 v2 v3 v4 v5 v6 v7) =
      [ ((((u8 (((v0 >>> 11) &&& 0xff))))) <<< 11) ||| ((((u8 (((v0 >>> 3) &&& 0xff))))) <<< 3) ||| ((((u8 (((((v0) &&& 0x7) <<< 5) ||| ((v1 >>> 14) &&& 0x1f)))) >>> 5) &&& 0x7)),
        (((((u8 (((((v0) &&& 0x7) <<< 5) ||| ((v1 >>> 14) &&& 0x1f))))) &&& 0x1f)) <<< 14) ||| ((((u8 (((v1 >>> 6) &&& 0xff))))) <<< 6) ||| ((((u8 (((((v1) &&& 0x3f) <<< 2) ||| ((v2 >>> 17) &&& 0x3)))) >>> 2) &&& 0x3f)),
        (((((u8 (((((v1) &&& 0x3f) <<< 2) ||| ((v2 >>> 17) &&& 0x3))))) &&& 0x3)) <<< 17) ||| ((((u8 (((v2 >>> 9) &&& 0xff))))) <<< 9) ||| ((((u8 (((v2 >>> 1) &&& 0xff))))) <<< 1) ||| ((((u8 (((((v2) &&& 0x1) <<< 7) ||| ((v3 >>> 12) &&& 0x7f)))) >>> 7) &&& 0x1)),
        (((((u8 (((((v2) &&& 0x1) <<< 7) ||| ((v3 >>> 12) &&& 0x7f))))) &&& 0x7f)) <<< 12) ||| ((((u8 (((v3 >>> 4) &&& 0xff))))) <<< 4) ||| ((((u8 (((((v3) &&& 0xf) <<< 4) ||| ((v4 >>> 15) &&& 0xf)))) >>> 4) &&& 0xf)),
        (((((u8 (((((v3) &&& 0xf) <<< 4) ||| ((v4 >>> 15) &&& 0xf))))) &&& 0xf)) <<< 15) ||| ((((u8 (((v4 >>> 7) &&& 0xff))))) <<< 7) ||| ((((u8 (((((v4) &&& 0x7f) <<< 1) ||| ((v5 >>> 18) &&& 0x1)))) >>> 1) &&& 0x7f)),
        (((((u8 (((((v4) &&& 0x7f) <<< 1) ||| ((v5 >>> 18) &&& 0x1))))) &&& 0x1)) <<< 18) ||| ((((u8 (((v5 >>> 10) &&& 0xff))))) <<< 10) ||| ((((u8 (((v5 >>> 2) &&& 0xff))))) <<< 2) ||| ((((u8 (((((v5) &&& 0x3) <<< 6) ||| ((v6 >>> 13) &&& 0x3f)))) >>> 6) &&& 0x3)),
        (((((u8 (((((v5) &&& 0x3) <<< 6) ||| ((v6 >>> 13) &&& 0x3f))))) &&& 0x3f)) <<< 13) ||| ((((u8 (((v6 >>> 5) &&& 0xff))))) <<< 5) ||| ((((u8 (((((v6) &&& 0x1f) <<< 3) ||| ((v7 >>> 16) &&& 0x7)))) >>> 3) &&& 0x1f)),
        (((((u8 (((((v6) &&& 0x1f) <<< 3) ||| ((v7 >>> 16) &&& 0x7))))) &&& 0x7)) <<< 16) ||| ((((u8 (((v7 >>> 8) &&& 0xff))))) <<< 8) ||| (((u8 (((v7) &&& 0xff))))) ] := rfl
  rw [key]
  rw [upb19_c0 v0 v1 h0,
    upb19_c1 v0 v1 v2 h1,
    upb19_c2 v1 v2 v3 h2,
    upb19_c3 v2 v3 v4 h3,
    upb19_c4 v3 v4 v5 h4,
    upb19_c5 v4 v5 v6 h5,
    upb19_c6 v5 v6 v7 h6,
    upb19_c7 v6 v7 h7]

theorem upb20_c0 (v0 v1 : Nat) (hv : v0 < 2 ^ 20) :
    ((((u8 (((v0 >>> 12) &&& 0xff))))) <<< 12) ||| ((((u8 (((v0 >>> 4) &&& 0xff))))) <<< 4) ||| ((((u8 (((((v0) &&& 0xf) <<< 4) ||| ((v1 >>> 16) &&& 0xf)))) >>> 4) &&& 0xf)) = v0 := by
  rw [step_top v0 20 12 rfl hv]
  rw [step_mid v0 12 4 rfl]
  rw [step_last v0 (((v1 >>> 16) &&& 0xf)) 4 4 15 rfl rfl
    (Nat.and_lt_two_pow _ (by norm_num))]

theorem upb20_c1 (v0 v1 : Nat) (hv : v1 < 2 ^ 20) :
    (((((u8 (((((v0) &&& 0xf) <<< 4) ||| ((v1 >>> 16) &&& 0xf))))) &&& 0xf)) <<< 16) ||| ((((u8 (((v1 >>> 8) &&& 0xff))))) <<< 8) ||| (((u8 (((v1) &&& 0xff))))) = v1 := by
  rw [step_first (((v0) &&& 0xf)) v1 20 16 4 15 rfl rfl (by norm_num) hv]
  rw [step_mid v1 16 8 rfl]
  rw [step_low v1]

theorem upb20_c2 (v2 v3 : Nat) (hv : v2 < 2 ^ 20) :
    ((((u8 (((v2 >>> 12) &&& 0xff))))) <<< 12) ||| ((((u8 (((v2 >>> 4) &&& 0xff))))) <<< 4) ||| ((((u8 (((((v2) &&& 0xf) <<< 4) ||| ((v3 >>> 16) &&& 0xf)))) >>> 4) &&& 0xf)) = v2 := by
  rw [step_top v2 20 12 rfl hv]
  rw [step_mid v2 12 4 rfl]
  rw [step_last v2 (((v3 >>> 16) &&& 0xf)) 4 4 15 rfl rfl
    (Nat.and_lt_two_pow _ (by norm_num))]

theorem upb20_c3 (v2 v3 : Nat) (hv : v3 < 2 ^ 20) :
    (((((u8 (((((v2) &&& 0xf) <<< 4) ||| ((v3 >>> 16) &&& 0xf))))) &&& 0xf)) <<< 16) ||| ((((u8 (((v3 >>> 8) &&& 0xff))))) <<< 8) ||| (((u8 (((v3) &&& 0xff))))) = v3 := by
  rw [step_first (((v2) &&& 0xf)) v3 20 16 4 15 rfl rfl (by norm_num) hv]
  rw [step_mid v3 16 8 rfl]
  rw [step_low v3]

theorem upb20_c4 (v4 v5 : Nat) (hv : v4 < 2 ^ 20) :
    ((((u8 (((v4 >>> 12) &&& 0xff))))) <<< 12) ||| ((((u8 (((v4 >>> 4) &&& 0xff))))) <<< 4) ||| ((((u8 (((((v4) &&& 0xf) <<< 4) ||| ((v5 >>> 16) &&& 0xf)))) >>> 4) &&& 0xf)) = v4 := by
  rw [step_top v4 20 12 rfl hv]
  rw [step_mid v4 12 4 rfl]
  rw [step_last v4 (((v5 >>> 16) &&& 0xf)) 4 4 15 rfl rfl
    (Nat.and_lt_two_pow _ (by norm_num))]

theorem upb20_c5 (v4 v5 : Nat) (hv : v5 < 2 ^ 20) :
    (((((u8 (((((v4) &&& 0xf) <<< 4) ||| ((v5 >>> 16) &&& 0xf))))) &&& 0xf)) <<< 16) ||| ((((u8 (((v5 >>> 8) &&& 0xff))))) <<< 8) ||| (((u8 (((v5) &&& 0xff))))) = v5 := by
  rw [step_first (((v4) &&& 0xf)) v5 20 16 4 15 rfl rfl (by norm_num) hv]
  rw [step_mid v5 16 8 rfl]
  rw [step_low v5]

theorem upb20_c6 (v6 v7 : Nat) (hv : v6 < 2 ^ 20) :
    ((((u8 (((v6 >>> 12) &&& 0xff))))) <<< 12) ||| ((((u8 (((v6 >>> 4) &&& 0xff))))) <<< 4) ||| ((((u8 (((((v6) &&& 0xf) <<< 4) ||| ((v7 >>> 16) &&& 0xf)))) >>> 4) &&& 0xf)) = v6 := by
  rw [step_top v6 20 12 rfl hv]
  rw [step_mid v6 12 4 rfl]
  rw [step_last v6 (((v7 >>> 16) &&& 0xf)) 4 4 15 rfl rfl
    (Nat.and_lt_two_pow _ (by norm_num))]

theorem upb20_c7 (v6 v7 : Nat) (hv : v7 < 2 ^ 20) :
    (((((u8 (((((v6) &&& 0xf) <<< 4) ||| ((v7 >>> 16) &&& 0xf))))) &&& 0xf)) <<< 16) ||| ((((u8 (((v7 >>> 8) &&& 0xff))))) <<< 8) ||| (((u8 (((v7) &&& 0xff))))) = v7 := by
  rw [step_first (((v6) &&& 0xf)) v7 20 16 4 15 rfl rfl (by norm_num) hv]
  rw [step_mid v7 16 8 rfl]
  rw [step_low v7]

theorem unpack_pack_bits_20 (v0 v1 v2 v3 v4 v5 v6 v7 : Nat)
    (h0 : v0 < 2 ^ 20) (h1 : v1 < 2 ^ 20) (h2 : v2 < 2 ^ 20) (h3 : v3 < 2 ^ 20) (h4 : v4 < 2 ^ 20) (h5 : v5 < 2 ^ 20) (h6 : v6 < 2 ^ 20) (h7 : v7 < 2 ^ 20) :
    unpack_bits_20 (pack_bits_20 v0 v1 v2 v3 v4 v5 v6 v7) =
      [v0, v1, v2, v3, v4, v5, v6, v7] := by
  have key : unpack_bits_20 (pack_bits_20 v0 v1 v2 v3 v4 v5 v6 v7) =
      [ ((((u8 (((v0 >>> 12) &&& 0xff))))) <<< 12) ||| ((((u8 (((v0 >>> 4) &&& 0xff))))) <<< 4) ||| ((((u8 (((((v0) &&& 0xf) <<< 4) ||| ((v1 >>> 16) &&& 0xf)))) >>> 4) &&& 0xf)),
        (((((u8 (((((v0) &&& 0xf) <<< 4) ||| ((v1 >>> 16) &&& 0xf))))) &&& 0xf)) <<< 16) ||| ((((u8 (((v1 >>> 8) &&& 0xff))))) <<< 8) ||| (((u8 (((v1) &&& 0xff))))),
        ((((u8 (((v2 >>> 12) &&& 0xff))))) <<< 12) ||| ((((u8 (((v2 >>> 4) &&& 0xff))))) <<< 4) ||| ((((u8 (((((v2) &&& 0xf) <<< 4) ||| ((v3 >>> 16) &&& 0xf)))) >>> 4) &&& 0xf)),
        (((((u8 (((((v2) &&& 0xf) <<< 4) ||| ((v3 >>> 16) &&& 0xf))))) &&& 0xf)) <<< 16) ||| ((((u8 (((v3 >>> 8) &&& 0xff))))) <<< 8) ||| (((u8 (((v3) &&& 0xff))))),
        ((((u8 (((v4 >>> 12) &&& 0xff))))) <<< 12) ||| ((((u8 (((v4 >>> 4) &&& 0xff))))) <<< 4) ||| ((((u8 (((((v4) &&& 0xf) <<< 4) ||| ((v5 >>> 16) &&& 0xf)))) >>> 4) &&& 0xf)),
        (((((u8 (((((v4) &&& 0xf) <<< 4) ||| ((v5 >>> 16) &&& 0xf))))) &&& 0xf)) <<< 16) ||| ((((u8 (((v5 >>> 8) &&& 0xff))))) <<< 8) ||| (((u8 (((v5) &&& 0xff))))),
        ((((u8 (((v6 >>> 12) &&& 0xff))))) <<< 12) ||| ((((u8 (((v6 >>> 4) &&& 0xff))))) <<< 4) ||| ((((u8 (((((v6) &&& 0xf) <<< 4) ||| ((v7 >>> 16) &&& 0xf)))) >>> 4) &&& 0xf)),
        (((((u8 (((((v6) &&& 0xf) <<< 4) ||| ((v7 >>> 16) &&& 0xf))))) &&& 0xf)) <<< 16) ||| ((((u8 (((v7 >>> 8) &&& 0xff))))) <<< 8) ||| (((u8 (((v7) &&& 0xff))))) ] := rfl
  rw [key]
  rw [upb20_c0 v0 v1 h0,
    upb20_c1 v0 v1 h1,
    upb20_c2 v2 v3 h2,
    upb20_c3 v2 v3 h3,
    upb20_c4 v4 v5 h4,
    upb20_c5 v4 v5 h5,
    upb20_c6 v6 v7 h6,
    upb20_c7 v6 v7 h7]

theorem upb21_c0 (v0 v1 : Nat) (hv : v0 < 2 ^ 21) :
    ((((u8 (((v0 >>> 13) &&& 0xff))))) <<< 13) ||| ((((u8 (((v0 >>> 5) &&& 0xff))))) <<< 5) ||| ((((u8 (((((v0) &&& 0x1f) <<< 3) ||| ((v1 >>> 18) &&& 0x7)))) >>> 3) &&& 0x1f)) = v0 := by
  rw [step_top v0 21 13 rfl hv]
  rw [step_mid v0 13 5 rfl]
  rw [step_last v0 (((v1 >>> 18) &&& 0x7)) 3 5 31 rfl rfl
    (Nat.and_lt_two_pow _ (by norm_num))]

theorem upb21_c1 (v0 v1 v2 : Nat) (hv : v1 < 2 ^ 21) :
    (((((u8 (((((v0) &&& 0x1f) <<< 3) ||| ((v1 >>> 18) &&& 0x7))))) &&& 0x7)) <<< 18) ||| ((((u8 (((v1 >>> 10) &&& 0xff))))) <<< 10) ||| ((((u8 (((v1 >>> 2) &&& 0xff))))) <<< 2) ||| ((((u8 (((((v1) &&& 0x3) <<< 6) ||| ((v2 >>> 15) &&& 0x3f)))) >>> 6) &&& 0x3)) = v1 := by
  rw [step_first (((v0) &&& 0x1f)) v1 21 18 3 7 rfl rfl (by norm_num) hv]
  rw [step_mid v1 18 10 rfl]
  rw [step_mid v1 10 2 rfl]
  rw [step_last v1 (((v2 >>> 15) &&& 0x3f)) 6 2 3 rfl rfl
    (Nat.and_lt_two_pow _ (by norm_num))]

theorem upb21_c2 (v1 v2 v3 : Nat) (hv : v2 < 2 ^ 21) :
    (((((u8 (((((v1) &&& 0x3) <<< 6) ||| ((v2 >>> 15) &&& 0x3f))))) &&& 0x3f)) <<< 15) ||| ((((u8 (((v2 >>> 7) &&& 0xff))))) <<< 7) ||| ((((u8 (((((v2) &&& 0x7f) <<< 1) ||| ((v3 >>> 20) &&& 0x1)))) >>> 1) &&& 0x7f)) = v2 := by
  rw [step_first (((v1) &&& 0x3)) v2 21 15 6 63 rfl rfl (by norm_num) hv]
  rw [step_mid v2 15 7 rfl]
  rw [step_last v2 (((v3 >>> 20) &&& 0x1)) 1 7 127 rfl rfl
    (Nat.and_lt_two_pow _ (by norm_num))]

theorem upb21_c3 (v2 v3 v4 : Nat) (hv : v3 < 2 ^ 21) :
    (((((u8 (((((v2) &&& 0x7f) <<< 1) ||| ((v3 >>> 20) &&& 0x1))))) &&& 0x1)) <<< 20) ||| ((((u8 (((v3 >>> 12) &&& 0xff))))) <<< 12) ||| ((((u8 (((v3 >>> 4) &&& 0xff))))) <<< 4) ||| ((((u8 (((((v3) &&& 0xf) <<< 4) ||| ((v4 >>> 17) &&& 0xf)))) >>> 4) &&& 0xf)) = v3 := by
  rw [step_first (((v2) &&& 0x7f)) v3 21 20 1 1 rfl rfl (by norm_num) hv]
  rw [step_mid v3 20 12 rfl]
  rw [step_mid v3 12 4 rfl]
  rw [step_last v3 (((v4 >>> 17) &&& 0xf)) 4 4 15 rfl rfl
    (Nat.and_lt_two_pow _ (by norm_num))]

theorem upb21_c4 (v3 v4 v5 : Nat) (hv : v4 < 2 ^ 21) :
    (((((u8 (((((v3) &&& 0xf) <<< 4) ||| ((v4 >>> 17) &&& 0xf))))) &&& 0xf)) <<< 17) ||| ((((u8 (((v4 >>> 9) &&& 0xff))))) <<< 9) ||| ((((u8 (((v4 >>> 1) &&& 0xff))))) <<< 1) ||| ((((u8 (((((v4) &&& 0x1) <<< 7) ||| ((v5 >>> 14) &&& 0x7f)))) >>> 7) &&& 0x1)) = v4 := by
  rw [step_first (((v3) &&& 0xf)) v4 21 17 4 15 rfl rfl (by norm_num) hv]
  rw [step_mid v4 17 9 rfl]
  rw [step_mid v4 9 1 rfl]
  rw [step_last v4 (((v5 >>> 14) &&& 0x7f)) 7 1 1 rfl rfl
    (Nat.and_lt_two_pow _ (by norm_num))]

theorem upb21_c5 (v4 v5 v6 : Nat) (hv : v5 < 2 ^ 21) :
    (((((u8 (((((v4) &&& 0x1) <<< 7) ||| ((v5 >>> 14) &&& 0x7f))))) &&& 0x7f)) <<< 14) ||| ((((u8 (((v5 >>> 6) &&& 0xff))))) <<< 6) ||| ((((u8 (((((v5) &&& 0x3f) <<< 2) ||| ((v6 >>> 19) &&& 0x3)))) >>> 2) &&& 0x3f)) = v5 := by
  rw [step_first (((v4) &&& 0x1)) v5 21 14 7 127 rfl rfl (by norm_num) hv]
  rw [step_mid v5 14 6 rfl]
  rw [step_last v5 (((v6 >>> 19) &&& 0x3)) 2 6 63 rfl rfl
    (Nat.and_lt_two_pow _ (by norm_num))]

theorem upb21_c6 (v5 v6 v7 : Nat) (hv : v6 < 2 ^ 21) :
    (((((u8 (((((v5) &&& 0x3f) <<< 2) ||| ((v6 >>> 19) &&& 0x3))))) &&& 0x3)) <<< 19) ||| ((((u8 (((v6 >>> 11) &&& 0xff))))) <<< 11) ||| ((((u8 (((v6 >>> 3) &&& 0xff))))) <<< 3) ||| ((((u8 (((((v6) &&& 0x7) <<< 5) ||| ((v7 >>> 16) &&& 0x1f)))) >>> 5) &&& 0x7)) = v6 := by
  rw [step_first (((v5) &&& 0x3f)) v6 21 19 2 3 rfl rfl (by norm_num) hv]
  rw [step_mid v6 19 11 rfl]
  rw [step_mid v6 11 3 rfl]
  rw [step_last v6 (((v7 >>> 16) &&& 0x1f)) 5 3 7 rfl rfl
    (Nat.and_lt_two_pow _ (by norm_num))]

theorem upb21_c7 (v6 v7 : Nat) (hv : v7 < 2 ^ 21) :
    (((((u8 (((((v6) &&& 0x7) <<< 5) ||| ((v7 >>> 16) &&& 0x1f))))) &&& 0x1f)) <<< 16) ||| ((((u8 (((v7 >>> 8) &&& 0xff))))) <<< 8) ||| (((u8 (((v7) &&& 0xff))))) = v7 := by
  rw [step_first (((v6) &&& 0x7)) v7 21 16 5 31 rfl rfl (by norm_num) hv]
  rw [step_mid v7 16 8 rfl]
  rw [step_low v7]

theorem unpack_pack_bits_21 (v0 v1 v2 v3 v4 v5 v6 v7 : Nat)
    (h0 : v0 < 2 ^ 21) (h1 : v1 < 2 ^ 21) (h2 : v2 < 2 ^ 21) (h3 : v3 < 2 ^ 21) (h4 : v4 < 2 ^ 21) (h5 : v5 < 2 ^ 21) (h6 : v6 < 2 ^ 21) (h7 : v7 < 2 ^ 21) :
    unpack_bits_21 (pack_bits_21 v0 v1 v2 v3 v4 v5 v6 v7) =
      [v0, v1, v2, v3, v4, v5, v6, v7] := by
  have key : unpack_bits_21 (pack_bits_21 v0 v1 v2 v3 v4 v5 v6 v7) =
      [ ((((u8 (((v0 >>> 13) &&& 0xff))))) <<< 13) ||| ((((u8 (((v0 >>> 5) &&& 0xff))))) <<< 5) ||| ((((u8 (((((v0) &&& 0x1f) <<< 3) ||| ((v1 >>> 18) &&& 0x7)))) >>> 3) &&& 0x1f)),
        (((((u8 (((((v0) &&& 0x1f) <<< 3) ||| ((v1 >>> 18) &&& 0x7))))) &&& 0x7)) <<< 18) ||| ((((u8 (((v1 >>> 10) &&& 0xff))))) <<< 10) ||| ((((u8 (((v1 >>> 2) &&& 0xff))))) <<< 2) ||| ((((u8 (((((v1) &&& 0x3) <<< 6) ||| ((v2 >>> 15) &&& 0x3f)))) >>> 6) &&& 0x3)),
        (((((u8 (((((v1) &&& 0x3) <<< 6) ||| ((v2 >>> 15) &&& 0x3f))))) &&& 0x3f)) <<< 15) ||| ((((u8 (((v2 >>> 7) &&& 0xff))))) <<< 7) ||| ((((u8 (((((v2) &&& 0x7f) <<< 1) ||| ((v3 >>> 20) &&& 0x1)))) >>> 1) &&& 0x7f)),
        (((((u8 (((((v2) &&& 0x7f) <<< 1) ||| ((v3 >>> 20) &&& 0x1))))) &&& 0x1)) <<< 20) ||| ((((u8 (((v3 >>> 12) &&& 0xff))))) <<< 12) ||| ((((u8 (((v3 >>> 4) &&& 0xff))))) <<< 4) ||| ((((u8 (((((v3) &&& 0xf) <<< 4) ||| ((v4 >>> 17) &&& 0xf)))) >>> 4) &&& 0xf)),
        (((((u8 (((((v3) &&& 0xf) <<< 4) ||| ((v4 >>> 17) &&& 0xf))))) &&& 0xf)) <<< 17) ||| ((((u8 (((v4 >>> 9) &&& 0xff))))) <<< 9) ||| ((((u8 (((v4 >>> 1) &&& 0xff))))) <<< 1) ||| ((((u8 (((((v4) &&& 0x1) <<< 7) ||| ((v5 >>> 14) &&& 0x7f)))) >>> 7) &&& 0x1)),
        (((((u8 (((((v4) &&& 0x1) <<< 7) ||| ((v5 >>> 14) &&& 0x7f))))) &&& 0x7f)) <<< 14) ||| ((((u8 (((v5 >>> 6) &&& 0xff))))) <<< 6) ||| ((((u8 (((((v5) &&& 0x3f) <<< 2) ||| ((v6 >>> 19) &&& 0x3)))) >>> 2) &&& 0x3f)),
        (((((u8 (((((v5) &&& 0x3f) <<< 2) ||| ((v6 >>> 19) &&& 0x3))))) &&& 0x3)) <<< 19) ||| ((((u8 (((v6 >>> 11) &&& 0xff))))) <<< 11) ||| ((((u8 (((v6 >>> 3) &&& 0xff))))) <<< 3) ||| ((((u8 (((((v6) &&& 0x7) <<< 5) ||| ((v7 >>> 16) &&& 0x1f)))) >>> 5) &&& 0x7)),
        (((((u8 (((((v6) &&& 0x7) <<< 5) ||| ((v7 >>> 16) &&& 0x1f))))) &&& 0x1f)) <<< 16) ||| ((((u8 (((v7 >>> 8) &&& 0xff))))) <<< 8) ||| (((u8 (((v7) &&& 0xff))))) ] := rfl
  rw [key]
  rw [upb21_c0 v0 v1 h0,
    upb21_c1 v0 v1 v2 h1,
    upb21_c2 v1 v2 v3 h2,
    upb21_c3 v2 v3 v4 h3,
    upb21_c4 v3 v4 v5 h4,
    upb21_c5 v4 v5 v6 h5,
    upb21_c6 v5 v6 v7 h6,
    upb21_c7 v6 v7 h7]

theorem upb22_c0 (v0 v1 : Nat) (hv : v0 < 2 ^ 22) :
    ((((u8 (((v0 >>> 14) &&& 0xff))))) <<< 14) ||| ((((u8 (((v0 >>> 6) &&& 0xff))))) <<< 6) ||| ((((u8 (((((v0) &&& 0x3f) <<< 2) ||| ((v1 >>> 20) &&& 0x3)))) >>> 2) &&& 0x3f)) = v0 := by
  rw [step_top v0 22 14 rfl hv]
  rw [step_mid v0 14 6 rfl]
  rw [step_last v0 (((v1 >>> 20) &&& 0x3)) 2 6 63 rfl rfl
    (Nat.and_lt_two_pow _ (by norm_num))]

theorem upb22_c1 (v0 v1 v2 : Nat) (hv : v1 < 2 ^ 22) :
    (((((u8 (((((v0) &&& 0x3f) <<< 2) ||| ((v1 >>> 20) &&& 0x3))))) &&& 0x3)) <<< 20) ||| ((((u8 (((v1 >>> 12) &&& 0xff))))) <<< 12) ||| ((((u8 (((v1 >>> 4) &&& 0xff))))) <<< 4) ||| ((((u8 (((((v1) &&& 0xf) <<< 4) ||| ((v2 >>> 18) &&& 0xf)))) >>> 4) &&& 0xf)) = v1 := by
  rw [step_first (((v0) &&& 0x3f)) v1 22 20 2 3 rfl rfl (by norm_num) hv]
  rw [step_mid v1 20 12 rfl]
  rw [step_mid v1 12 4 rfl]
  rw [step_last v1 (((v2 >>> 18) &&& 0xf)) 4 4 15 rfl rfl
    (Nat.and_lt_two_pow _ (by norm_num))]

theorem upb22_c2 (v1 v2 v3 : Nat) (hv : v2 < 2 ^ 22) :
    (((((u8 (((((v1) &&& 0xf) <<< 4) ||| ((v2 >>> 18) &&& 0xf))))) &&& 0xf)) <<< 18) ||| ((((u8 (((v2 >>> 10) &&& 0xff))))) <<< 10) ||| ((((u8 (((v2 >>> 2) &&& 0xff))))) <<< 2) ||| ((((u8 (((((v2) &&& 0x3) <<< 6) ||| ((v3 >>> 16) &&& 0x3f)))) >>> 6) &&& 0x3)) = v2 := by
  rw [step_first (((v1) &&& 0xf)) v2 22 18 4 15 rfl rfl (by norm_num) hv]
  rw [step_mid v2 18 10 rfl]
  rw [step_mid v2 10 2 rfl]
  rw [step_last v2 (((v3 >>> 16) &&& 0x3f)) 6 2 3 rfl rfl
    (Nat.and_lt_two_pow _ (by norm_num))]

theorem upb22_c3 (v2 v3 : Nat) (hv : v3 < 2 ^ 22) :
    (((((u8 (((((v2) &&& 0x3) <<< 6) ||| ((v3 >>> 16) &&& 0x3f))))) &&& 0x3f)) <<< 16) ||| ((((u8 (((v3 >>> 8) &&& 0xff))))) <<< 8) ||| (((u8 (((v3) &&& 0xff))))) = v3 := by
  rw [step_first (((v2) &&& 0x3)) v3 22 16 6 63 rfl rfl (by norm_num) hv]
  rw [step_mid v3 16 8 rfl]
  rw [step_low v3]

theorem upb22_c4 (v4 v5 : Nat) (hv : v4 < 2 ^ 22) :
    ((((u8 (((v4 >>> 14) &&& 0xff))))) <<< 14) ||| ((((u8 (((v4 >>> 6) &&& 0xff))))) <<< 6) ||| ((((u8 (((((v4) &&& 0x3f) <<< 2) ||| ((v5 >>> 20) &&& 0x3)))) >>> 2) &&& 0x3f)) = v4 := by
  rw [step_top v4 22 14 rfl hv]
  rw [step_mid v4 14 6 rfl]
  rw [step_last v4 (((v5 >>> 20) &&& 0x3)) 2 6 63 rfl rfl
    (Nat.and_lt_two_pow _ (by norm_num))]

theorem upb22_c5 (v4 v5 v6 : Nat) (hv : v5 < 2 ^ 22) :
    (((((u8 (((((v4) &&& 0x3f) <<< 2) ||| ((v5 >>> 20) &&& 0x3))))) &&& 0x3)) <<< 20) ||| ((((u8 (((v5 >>> 12) &&& 0xff))))) <<< 12) ||| ((((u8 (((v5 >>> 4) &&& 0xff))))) <<< 4) ||| ((((u8 (((((v5) &&& 0xf) <<< 4) ||| ((v6 >>> 18) &&& 0xf)))) >>> 4) &&& 0xf)) = v5 := by
  rw [step_first (((v4) &&& 0x3f)) v5 22 20 2 3 rfl rfl (by norm_num) hv]
  rw [step_mid v5 20 12 rfl]
  rw [step_mid v5 12 4 rfl]
  rw [step_last v5 (((v6 >>> 18) &&& 0xf)) 4 4 15 rfl rfl
    (Nat.and_lt_two_pow _ (by norm_num))]

theorem upb22_c6 (v5 v6 v7 : Nat) (hv : v6 < 2 ^ 22) :
    (((((u8 (((((v5) &&& 0xf) <<< 4) ||| ((v6 >>> 18) &&& 0xf))))) &&& 0xf)) <<< 18) ||| ((((u8 (((v6 >>> 10) &&& 0xff))))) <<< 10) ||| ((((u8 (((v6 >>> 2) &&& 0xff))))) <<< 2) ||| ((((u8 (((((v6) &&& 0x3) <<< 6) ||| ((v7 >>> 16) &&& 0x3f)))) >>> 6) &&& 0x3)) = v6 := by
  rw [step_first (((v5) &&& 0xf)) v6 22 18 4 15 rfl rfl (by norm_num) hv]
  rw [step_mid v6 18 10 rfl]
  rw [step_mid v6 10 2 rfl]
  rw [step_last v6 (((v7 >>> 16) &&& 0x3f)) 6 2 3 rfl rfl
    (Nat.and_lt_two_pow _ (by norm_num))]

theorem upb22_c7 (v6 v7 : Nat) (hv : v7 < 2 ^ 22) :
    (((((u8 (((((v6) &&& 0x3) <<< 6) ||| ((v7 >>> 16) &&& 0x3f))))) &&& 0x3f)) <<< 16) ||| ((((u8 (((v7 >>> 8) &&& 0xff))))) <<< 8) ||| (((u8 (((v7) &&& 0xff))))) = v7 := by
  rw [step_first (((v6) &&& 0x3)) v7 22 16 6 63 rfl rfl (by norm_num) hv]
  rw [step_mid v7 16 8 rfl]
  rw [step_low v7]

theorem unpack_pack_bits_22 (v0 v1 v2 v3 v4 v5 v6 v7 : Nat)
    (h0 : v0 < 2 ^ 22) (h1 : v1 < 2 ^ 22) (h2 : v2 < 2 ^ 22) (h3 : v3 < 2 ^ 22) (h4 : v4 < 2 ^ 22) (h5 : v5 < 2 ^ 22) (h6 : v6 < 2 ^ 22) (h7 : v7 < 2 ^ 22) :
    unpack_bits_22 (pack_bits_22 v0 v1 v2 v3 v4 v5 v6 v7) =
      [v0, v1, v2, v3, v4, v5, v6, v7] := by
  have key : unpack_bits_22 (pack_bits_22 v0 v1 v2 v3 v4 v5 v6 v7) =
      [ ((((u8 (((v0 >>> 14) &&& 0xff))))) <<< 14) ||| ((((u8 (((v0 >>> 6) &&& 0xff))))) <<< 6) ||| ((((u8 (((((v0) &&& 0x3f) <<< 2) ||| ((v1 >>> 20) &&& 0x3)))) >>> 2) &&& 0x3f)),
        (((((u8 (((((v0) &&& 0x3f) <<< 2) ||| ((v1 >>> 20) &&& 0x3))))) &&& 0x3)) <<< 20) ||| ((((u8 (((v1 >>> 12) &&& 0xff))))) <<< 12) ||| ((((u8 (((v1 >>> 4) &&& 0xff))))) <<< 4) ||| ((((u8 (((((v1) &&& 0xf) <<< 4) ||| ((v2 >>> 18) &&& 0xf)))) >>> 4) &&& 0xf)),
        (((((u8 (((((v1) &&& 0xf) <<< 4) ||| ((v2 >>> 18) &&& 0xf))))) &&& 0xf)) <<< 18) ||| ((((u8 (((v2 >>> 10) &&& 0xff))))) <<< 10) ||| ((((u8 (((v2 >>> 2) &&& 0xff))))) <<< 2) ||| ((((u8 (((((v2) &&& 0x3) <<< 6) ||| ((v3 >>> 16) &&& 0x3f)))) >>> 6) &&& 0x3)),
        (((((u8 (((((v2) &&& 0x3) <<< 6) ||| ((v3 >>> 16) &&& 0x3f))))) &&& 0x3f)) <<< 16) ||| ((((u8 (((v3 >>> 8) &&& 0xff))))) <<< 8) ||| (((u8 (((v3) &&& 0xff))))),
        ((((u8 (((v4 >>> 14) &&& 0xff))))) <<< 14) ||| ((((u8 (((v4 >>> 6) &&& 0xff))))) <<< 6) ||| ((((u8 (((((v4) &&& 0x3f) <<< 2) ||| ((v5 >>> 20) &&& 0x3)))) >>> 2) &&& 0x3f)),
        (((((u8 (((((v4) &&& 0x3f) <<< 2) ||| ((v5 >>> 20) &&& 0x3))))) &&& 0x3)) <<< 20) ||| ((((u8 (((v5 >>> 12) &&& 0xff))))) <<< 12) ||| ((((u8 (((v5 >>> 4) &&& 0xff))))) <<< 4) ||| ((((u8 (((((v5) &&& 0xf) <<< 4) ||| ((v6 >>> 18) &&& 0xf)))) >>> 4) &&& 0xf)),
        (((((u8 (((((v5) &&& 0xf) <<< 4) ||| ((v6 >>> 18) &&& 0xf))))) &&& 0xf)) <<< 18) ||| ((((u8 (((v6 >>> 10) &&& 0xff))))) <<< 10) ||| ((((u8 (((v6 >>> 2) &&& 0xff))))) <<< 2) ||| ((((u8 (((((v6) &&& 0x3) <<< 6) ||| ((v7 >>> 16) &&& 0x3f)))) >>> 6) &&& 0x3)),
        (((((u8 (((((v6) &&& 0x3) <<< 6) ||| ((v7 >>> 16) &&& 0x3f))))) &&& 0x3f)) <<< 16) ||| ((((u8 (((v7 >>> 8) &&& 0xff))))) <<< 8) ||| (((u8 (((v7) &&& 0xff))))) ] := rfl
  rw [key]
  rw [upb22_c0 v0 v1 h0,
    upb22_c1 v0 v1 v2 h1,
    upb22_c2 v1 v2 v3 h2,
    upb22_c3 v2 v3 h3,
    upb22_c4 v4 v5 h4,
    upb22_c5 v4 v5 v6 h5,
    upb22_c6 v5 v6 v7 h6,
    upb22_c7 v6 v7 h7]

theorem upb23_c0 (v0 v1 : Nat) (hv : v0 < 2 ^ 23) :
    ((((u8 (((v0 >>> 15) &&& 0xff))))) <<< 15) ||| ((((u8 (((v0 >>> 7) &&& 0xff))))) <<< 7) ||| ((((u8 (((((v0) &&& 0x7f) <<< 1) ||| ((v1 >>> 22) &&& 0x1)))) >>> 1) &&& 0x7f)) = v0 := by
  rw [step_top v0 23 15 rfl hv]
  rw [step_mid v0 15 7 rfl]
  rw [step_last v0 (((v1 >>> 22) &&& 0x1)) 1 7 127 rfl rfl
    (Nat.and_lt_two_pow _ (by norm_num))]

theorem upb23_c1 (v0 v1 v2 : Nat) (hv : v1 < 2 ^ 23) :
    (((((u8 (((((v0) &&& 0x7f) <<< 1) ||| ((v1 >>> 22) &&& 0x1))))) &&& 0x1)) <<< 22) ||| ((((u8 (((v1 >>> 14) &&& 0xff))))) <<< 14) ||| ((((u8 (((v1 >>> 6) &&& 0xff))))) <<< 6) ||| ((((u8 (((((v1) &&& 0x3f) <<< 2) ||| ((v2 >>> 21) &&& 0x3)))) >>> 2) &&& 0x3f)) = v1 := by
  rw [step_first (((v0) &&& 0x7f)) v1 23 22 1 1 rfl rfl (by norm_num) hv]
  rw [step_mid v1 22 14 rfl]
  rw [step_mid v1 14 6 rfl]
  rw [step_last v1 (((v2 >>> 21) &&& 0x3)) 2 6 63 rfl rfl
    (Nat.and_lt_two_pow _ (by norm_num))]

theorem upb23_c2 (v1 v2 v3 : Nat) (hv : v2 < 2 ^ 23) :
    (((((u8 (((((v1) &&& 0x3f) <<< 2) ||| ((v2 >>> 21) &&& 0x3))))) &&& 0x3)) <<< 21) ||| ((((u8 (((v2 >>> 13) &&& 0xff))))) <<< 13) ||| ((((u8 (((v2 >>> 5) &&& 0xff))))) <<< 5) ||| ((((u8 (((((v2) &&& 0x1f) <<< 3) ||| ((v3 >>> 20) &&& 0x7)))) >>> 3) &&& 0x1f)) = v2 := by
  rw [step_first (((v1) &&& 0x3f)) v2 23 21 2 3 rfl rfl (by norm_num) hv]
  rw [step_mid v2 21 13 rfl]
  rw [step_mid v2 13 5 rfl]
  rw [step_last v2 (((v3 >>> 20) &&& 0x7)) 3 5 31 rfl rfl
    (Nat.and_lt_two_pow _ (by norm_num))]

theorem upb23_c3 (v2 v3 v4 : Nat) (hv : v3 < 2 ^ 23) :
    (((((u8 (((((v2) &&& 0x1f) <<< 3) ||| ((v3 >>> 20) &&& 0x7))))) &&& 0x7)) <<< 20) ||| ((((u8 (((v3 >>> 12) &&& 0xff))))) <<< 12) ||| ((((u8 (((v3 >>> 4) &&& 0xff))))) <<< 4) ||| ((((u8 (((((v3) &&& 0xf) <<< 4) ||| ((v4 >>> 19) &&& 0xf)))) >>> 4) &&& 0xf)) = v3 := by
  rw [step_first (((v2) &&& 0x1f)) v3 23 20 3 7 rfl rfl (by norm_num) hv]
  rw [step_mid v3 20 12 rfl]
  rw [step_mid v3 12 4 rfl]
  rw [step_last v3 (((v4 >>> 19) &&& 0xf)) 4 4 15 rfl rfl
    (Nat.and_lt_two_pow _ (by norm_num))]

theorem upb23_c4 (v3 v4 v5 : Nat) (hv : v4 < 2 ^ 23) :
    (((((u8 (((((v3) &&& 0xf) <<< 4) ||| ((v4 >>> 19) &&& 0xf))))) &&& 0xf)) <<< 19) ||| ((((u8 (((v4 >>> 11) &&& 0xff))))) <<< 11) ||| ((((u8 (((v4 >>> 3) &&& 0xff))))) <<< 3) ||| ((((u8 (((((v4) &&& 0x7) <<< 5) ||| ((v5 >>> 18) &&& 0x1f)))) >>> 5) &&& 0x7)) = v4 := by
  rw [step_first (((v3) &&& 0xf)) v4 23 19 4 15 rfl rfl (by norm_num) hv]
  rw [step_mid v4 19 11 rfl]
  rw [step_mid v4 11 3 rfl]
  rw [step_last v4 (((v5 >>> 18) &&& 0x1f)) 5 3 7 rfl rfl
    (Nat.and_lt_two_pow _ (by norm_num))]

theorem upb23_c5 (v4 v5 v6 : Nat) (hv : v5 < 2 ^ 23) :
    (((((u8 (((((v4) &&& 0x7) <<< 5) ||| ((v5 >>> 18) &&& 0x1f))))) &&& 0x1f)) <<< 18) ||| ((((u8 (((v5 >>> 10) &&& 0xff))))) <<< 10) ||| ((((u8 (((v5 >>> 2) &&& 0xff))))) <<< 2) ||| ((((u8 (((((v5) &&& 0x3) <<< 6) ||| ((v6 >>> 17) &&& 0x3f)))) >>> 6) &&& 0x3)) = v5 := by
  rw [step_first (((v4) &&& 0x7)) v5 23 18 5 31 rfl rfl (by norm_num) hv]
  rw [step_mid v5 18 10 rfl]
  rw [step_mid v5 10 2 rfl]
  rw [step_last v5 (((v6 >>> 17) &&& 0x3f)) 6 2 3 rfl rfl
    (Nat.and_lt_two_pow _ (by norm_num))]

theorem upb23_c6 (v5 v6 v7 : Nat) (hv : v6 < 2 ^ 23) :
    (((((u8 (((((v5) &&& 0x3) <<< 6) ||| ((v6 >>> 17) &&& 0x3f))))) &&& 0x3f)) <<< 17) ||| ((((u8 (((v6 >>> 9) &&& 0xff))))) <<< 9) ||| ((((u8 (((v6 >>> 1) &&& 0xff))))) <<< 1) ||| ((((u8 (((((v6) &&& 0x1) <<< 7) ||| ((v7 >>> 16) &&& 0x7f)))) >>> 7) &&& 0x1)) = v6 := by
  rw [step_first (((v5) &&& 0x3)) v6 23 17 6 63 rfl rfl (by norm_num) hv]
  rw [step_mid v6 17 9 rfl]
  rw [step_mid v6 9 1 rfl]
  rw [step_last v6 (((v7 >>> 16) &&& 0x7f)) 7 1 1 rfl rfl
    (Nat.and_lt_two_pow _ (by norm_num))]

theorem upb23_c7 (v6 v7 : Nat) (hv : v7 < 2 ^ 23) :
    (((((u8 (((((v6) &&& 0x1) <<< 7) ||| ((v7 >>> 16) &&& 0x7f))))) &&& 0x7f)) <<< 16) ||| ((((u8 (((v7 >>> 8) &&& 0xff))))) <<< 8) ||| (((u8 (((v7) &&& 0xff))))) = v7 := by
  rw [step_first (((v6) &&& 0x1)) v7 23 16 7 127 rfl rfl (by norm_num) hv]
  rw [step_mid v7 16 8 rfl]
  rw [step_low v7]

theorem unpack_pack_bits_23 (v0 v1 v2 v3 v4 v5 v6 v7 : Nat)
    (h0 : v0 < 2 ^ 23) (h1 : v1 < 2 ^ 23) (h2 : v2 < 2 ^ 23) (h3 : v3 < 2 ^ 23) (h4 : v4 < 2 ^ 23) (h5 : v5 < 2 ^ 23) (h6 : v6 < 2 ^ 23) (h7 : v7 < 2 ^ 23) :
    unpack_bits_23 (pack_bits_23 v0 v1 v2 v3 v4 v5 v6 v7) =
      [v0, v1, v2, v3, v4, v5, v6, v7] := by
  have key : unpack_bits_23 (pack_bits_23 v0 v1 v2 v3 v4 v5 v6 v7) =
      [ ((((u8 (((v0 >>> 15) &&& 0xff))))) <<< 15) ||| ((((u8 (((v0 >>> 7) &&& 0xff))))) <<< 7) ||| ((((u8 (((((v0) &&& 0x7f) <<< 1) ||| ((v1 >>> 22) &&& 0x1)))) >>> 1) &&& 0x7f)),
        (((((u8 (((((v0) &&& 0x7f) <<< 1) ||| ((v1 >>> 22) &&& 0x1))))) &&& 0x1)) <<< 22) ||| ((((u8 (((v1 >>> 14) &&& 0xff))))) <<< 14) ||| ((((u8 (((v1 >>> 6) &&& 0xff))))) <<< 6) ||| ((((u8 (((((v1) &&& 0x3f) <<< 2) ||| ((v2 >>> 21) &&& 0x3)))) >>> 2) &&& 0x3f)),
        (((((u8 (((((v1) &&& 0x3f) <<< 2) ||| ((v2 >>> 21) &&& 0x3))))) &&& 0x3)) <<< 21) ||| ((((u8 (((v2 >>> 13) &&& 0xff))))) <<< 13) ||| ((((u8 (((v2 >>> 5) &&& 0xff))))) <<< 5) ||| ((((u8 (((((v2) &&& 0x1f) <<< 3) ||| ((v3 >>> 20) &&& 0x7)))) >>> 3) &&& 0x1f)),
        (((((u8 (((((v2) &&& 0x1f) <<< 3) ||| ((v3 >>> 20) &&& 0x7))))) &&& 0x7)) <<< 20) ||| ((((u8 (((v3 >>> 12) &&& 0xff))))) <<< 12) ||| ((((u8 (((v3 >>> 4) &&& 0xff))))) <<< 4) ||| ((((u8 (((((v3) &&& 0xf) <<< 4) ||| ((v4 >>> 19) &&& 0xf)))) >>> 4) &&& 0xf)),
        (((((u8 (((((v3) &&& 0xf) <<< 4) ||| ((v4 >>> 19) &&& 0xf))))) &&& 0xf)) <<< 19) ||| ((((u8 (((v4 >>> 11) &&& 0xff))))) <<< 11) ||| ((((u8 (((v4 >>> 3) &&& 0xff))))) <<< 3) ||| ((((u8 (((((v4) &&& 0x7) <<< 5) ||| ((v5 >>> 18) &&& 0x1f)))) >>> 5) &&& 0x7)),
        (((((u8 (((((v4) &&& 0x7) <<< 5) ||| ((v5 >>> 18) &&& 0x1f))))) &&& 0x1f)) <<< 18) ||| ((((u8 (((v5 >>> 10) &&& 0xff))))) <<< 10) ||| ((((u8 (((v5 >>> 2) &&& 0xff))))) <<< 2) ||| ((((u8 (((((v5) &&& 0x3) <<< 6) ||| ((v6 >>> 17) &&& 0x3f)))) >>> 6) &&& 0x3)),
        (((((u8 (((((v5) &&& 0x3) <<< 6) ||| ((v6 >>> 17) &&& 0x3f))))) &&& 0x3f)) <<< 17) ||| ((((u8 (((v6 >>> 9) &&& 0xff))))) <<< 9) ||| ((((u8 (((v6 >>> 1) &&& 0xff))))) <<< 1) ||| ((((u8 (((((v6) &&& 0x1) <<< 7) ||| ((v7 >>> 16) &&& 0x7f)))) >>> 7) &&& 0x1)),
        (((((u8 (((((v6) &&& 0x1) <<< 7) ||| ((v7 >>> 16) &&& 0x7f))))) &&& 0x7f)) <<< 16) ||| ((((u8 (((v7 >>> 8) &&& 0xff))))) <<< 8) ||| (((u8 (((v7) &&& 0xff))))) ] := rfl
  rw [key]
  rw [upb23_c0 v0 v1 h0,
    upb23_c1 v0 v1 v2 h1,
    upb23_c2 v1 v2 v3 h2,
    upb23_c3 v2 v3 v4 h3,
    upb23_c4 v3 v4 v5 h4,
    upb23_c5 v4 v5 v6 h5,
    upb23_c6 v5 v6 v7 h6,
    upb23_c7 v6 v7 h7]

theorem upb24_c0 (v0 : Nat) (hv : v0 < 2 ^ 24) :
    ((((u8 (((v0 >>> 16) &&& 0xff))))) <<< 16) ||| ((((u8 (((v0 >>> 8) &&& 0xff))))) <<< 8) ||| (((u8 (((v0) &&& 0xff))))) = v0 := by
  rw [step_top v0 24 16 rfl hv]
  rw [step_mid v0 16 8 rfl]
  rw [step_low v0]

theorem upb24_c1 (v1 : Nat) (hv : v1 < 2 ^ 24) :
    ((((u8 (((v1 >>> 16) &&& 0xff))))) <<< 16) ||| ((((u8 (((v1 >>> 8) &&& 0xff))))) <<< 8) ||| (((u8 (((v1) &&& 0xff))))) = v1 := by
  rw [step_top v1 24 16 rfl hv]
  rw [step_mid v1 16 8 rfl]
  rw [step_low v1]

theorem upb24_c2 (v2 : Nat) (hv : v2 < 2 ^ 24) :
    ((((u8 (((v2 >>> 16) &&& 0xff))))) <<< 16) ||| ((((u8 (((v2 >>> 8) &&& 0xff))))) <<< 8) ||| (((u8 (((v2) &&& 0xff))))) = v2 := by
  rw [step_top v2 24 16 rfl hv]
  rw [step_mid v2 16 8 rfl]
  rw [step_low v2]

theorem upb24_c3 (v3 : Nat) (hv : v3 < 2 ^ 24) :
    ((((u8 (((v3 >>> 16) &&& 0xff))))) <<< 16) ||| ((((u8 (((v3 >>> 8) &&& 0xff))))) <<< 8) ||| (((u8 (((v3) &&& 0xff))))) = v3 := by
  rw [step_top v3 24 16 rfl hv]
  rw [step_mid v3 16 8 rfl]
  rw [step_low v3]

theorem upb24_c4 (v4 : Nat) (hv : v4 < 2 ^ 24) :
    ((((u8 (((v4 >>> 16) &&& 0xff))))) <<< 16) ||| ((((u8 (((v4 >>> 8) &&& 0xff))))) <<< 8) ||| (((u8 (((v4) &&& 0xff))))) = v4 := by
  rw [step_top v4 24 16 rfl hv]
  rw [step_mid v4 16 8 rfl]
  rw [step_low v4]

theorem upb24_c5 (v5 : Nat) (hv : v5 < 2 ^ 24) :
    ((((u8 (((v5 >>> 16) &&& 0xff))))) <<< 16) ||| ((((u8 (((v5 >>> 8) &&& 0xff))))) <<< 8) ||| (((u8 (((v5) &&& 0xff))))) = v5 := by
  rw [step_top v5 24 16 rfl hv]
  rw [step_mid v5 16 8 rfl]
  rw [step_low v5]

theorem upb24_c6 (v6 : Nat) (hv : v6 < 2 ^ 24) :
    ((((u8 (((v6 >>> 16) &&& 0xff))))) <<< 16) ||| ((((u8 (((v6 >>> 8) &&& 0xff))))) <<< 8) ||| (((u8 (((v6) &&& 0xff))))) = v6 := by
  rw [step_top v6 24 16 rfl hv]
  rw [step_mid v6 16 8 rfl]
  rw [step_low v6]

theorem upb24_c7 (v7 : Nat) (hv : v7 < 2 ^ 24) :
    ((((u8 (((v7 >>> 16) &&& 0xff))))) <<< 16) ||| ((((u8 (((v7 >>> 8) &&& 0xff))))) <<< 8) ||| (((u8 (((v7) &&& 0xff))))) = v7 := by
  rw [step_top v7 24 16 rfl hv]
  rw [step_mid v7 16 8 rfl]
  rw [step_low v7]

theorem unpack_pack_bits_24 (v0 v1 v2 v3 v4 v5 v6 v7 : Nat)
    (h0 : v0 < 2 ^ 24) (h1 : v1 < 2 ^ 24) (h2 : v2 < 2 ^ 24) (h3 : v3 < 2 ^ 24) (h4 : v4 < 2 ^ 24) (h5 : v5 < 2 ^ 24) (h6 : v6 < 2 ^ 24) (h7 : v7 < 2 ^ 24) :
    unpack_bits_24 (pack_bits_24 v0 v1 v2 v3 v4 v5 v6 v7) =
      [v0, v1, v2, v3, v4, v5, v6, v7] := by
  have key : unpack_bits_24 (pack_bits_24 v0 v1 v2 v3 v4 v5 v6 v7) =
      [ ((((u8 (((v0 >>> 16) &&& 0xff))))) <<< 16) ||| ((((u8 (((v0 >>> 8) &&& 0xff))))) <<< 8) ||| (((u8 (((v0) &&& 0xff))))),
        ((((u8 (((v1 >>> 16) &&& 0xff))))) <<< 16) ||| ((((u8 (((v1 >>> 8) &&& 0xff))))) <<< 8) ||| (((u8 (((v1) &&& 0xff))))),
        ((((u8 (((v2 >>> 16) &&& 0xff))))) <<< 16) ||| ((((u8 (((v2 >>> 8) &&& 0xff))))) <<< 8) ||| (((u8 (((v2) &&& 0xff))))),
        ((((u8 (((v3 >>> 16) &&& 0xff))))) <<< 16) ||| ((((u8 (((v3 >>> 8) &&& 0xff))))) <<< 8) ||| (((u8 (((v3) &&& 0xff))))),
        ((((u8 (((v4 >>> 16) &&& 0xff))))) <<< 16) ||| ((((u8 (((v4 >>> 8) &&& 0xff))))) <<< 8) ||| (((u8 (((v4) &&& 0xff))))),
        ((((u8 (((v5 >>> 16) &&& 0xff))))) <<< 16) ||| ((((u8 (((v5 >>> 8) &&& 0xff))))) <<< 8) ||| (((u8 (((v5) &&& 0xff))))),
        ((((u8 (((v6 >>> 16) &&& 0xff))))) <<< 16) ||| ((((u8 (((v6 >>> 8) &&& 0xff))))) <<< 8) ||| (((u8 (((v6) &&& 0xff))))),
        ((((u8 (((v7 >>> 16) &&& 0xff))))) <<< 16) ||| ((((u8 (((v7 >>> 8) &&& 0xff))))) <<< 8) ||| (((u8 (((v7) &&& 0xff))))) ] := rfl
  rw [key]
  rw [upb24_c0 v0 h0,
    upb24_c1 v1 h1,
    upb24_c2 v2 h2,
    upb24_c3 v3 h3,
    upb24_c4 v4 h4,
    upb24_c5 v5 h5,
    upb24_c6 v6 h6,
    upb24_c7 v7 h7]

theorem upb25_c0 (v0 v1 : Nat) (hv : v0 < 2 ^ 25) :
    ((((u8 (((v0 >>> 17) &&& 0xff))))) <<< 17) ||| ((((u8 (((v0 >>> 9) &&& 0xff))))) <<< 9) ||| ((((u8 (((v0 >>> 1) &&& 0xff))))) <<< 1) ||| ((((u8 (((((v0) &&& 0x1) <<< 7) ||| ((v1 >>> 18) &&& 0x7f)))) >>> 7) &&& 0x1)) = v0 := by
  rw [step_top v0 25 17 rfl hv]
  rw [step_mid v0 17 9 rfl]
  rw [step_mid v0 9 1 rfl]
  rw [step_last v0 (((v1 >>> 18) &&& 0x7f)) 7 1 1 rfl rfl
    (Nat.and_lt_two_pow _ (by norm_num))]

theorem upb25_c1 (v0 v1 v2 : Nat) (hv : v1 < 2 ^ 25) :
    (((((u8 (((((v0) &&& 0x1) <<< 7) ||| ((v1 >>> 18) &&& 0x7f))))) &&& 0x7f)) <<< 18) ||| ((((u8 (((v1 >>> 10) &&& 0xff))))) <<< 10) ||| ((((u8 (((v1 >>> 2) &&& 0xff))))) <<< 2) ||| ((((u8 (((((v1) &&& 0x3) <<< 6) ||| ((v2 >>> 19) &&& 0x3f)))) >>> 6) &&& 0x3)) = v1 := by
  rw [step_first (((v0) &&& 0x1)) v1 25 18 7 127 rfl rfl (by norm_num) hv]
  rw [step_mid v1 18 10 rfl]
  rw [step_mid v1 10 2 rfl]
  rw [step_last v1 (((v2 >>> 19) &&& 0x3f)) 6 2 3 rfl rfl
    (Nat.and_lt_two_pow _ (by norm_num))]

theorem upb25_c2 (v1 v2 v3 : Nat) (hv : v2 < 2 ^ 25) :
    (((((u8 (((((v1) &&& 0x3) <<< 6) ||| ((v2 >>> 19) &&& 0x3f))))) &&& 0x3f)) <<< 19) ||| ((((u8 (((v2 >>> 11) &&& 0xff))))) <<< 11) ||| ((((u8 (((v2 >>> 3) &&& 0xff))))) <<< 3) ||| ((((u8 (((((v2) &&& 0x7) <<< 5) ||| ((v3 >>> 20) &&& 0x1f)))) >>> 5) &&& 0x7)) = v2 := by
  rw [step_first (((v1) &&& 0x3)) v2 25 19 6 63 rfl rfl (by norm_num) hv]
  rw [step_mid v2 19 11 rfl]
  rw [step_mid v2 11 3 rfl]
  rw [step_last v2 (((v3 >>> 20) &&& 0x1f)) 5 3 7 rfl rfl
    (Nat.and_lt_two_pow _ (by norm_num))]

theorem upb25_c3 (v2 v3 v4 : Nat) (hv : v3 < 2 ^ 25) :
    (((((u8 (((((v2) &&& 0x7) <<< 5) ||| ((v3 >>> 20) &&& 0x1f))))) &&& 0x1f)) <<< 20) ||| ((((u8 (((v3 >>> 12) &&& 0xff))))) <<< 12) ||| ((((u8 (((v3 >>> 4) &&& 0xff))))) <<< 4) ||| ((((u8 (((((v3) &&& 0xf) <<< 4) ||| ((v4 >>> 21) &&& 0xf)))) >>> 4) &&& 0xf)) = v3 := by
  rw [step_first (((v2) &&& 0x7)) v3 25 20 5 31 rfl rfl (by norm_num) hv]
  rw [step_mid v3 20 12 rfl]
  rw [step_mid v3 12 4 rfl]
  rw [step_last v3 (((v4 >>> 21) &&& 0xf)) 4 4 15 rfl rfl
    (Nat.and_lt_two_pow _ (by norm_num))]

theorem upb25_c4 (v3 v4 v5 : Nat) (hv : v4 < 2 ^ 25) :
    (((((u8 (((((v3) &&& 0xf) <<< 4) ||| ((v4 >>> 21) &&& 0xf))))) &&& 0xf)) <<< 21) ||| ((((u8 (((v4 >>> 13) &&& 0xff))))) <<< 13) ||| ((((u8 (((v4 >>> 5) &&& 0xff))))) <<< 5) ||| ((((u8 (((((v4) &&& 0x1f) <<< 3) ||| ((v5 >>> 22) &&& 0x7)))) >>> 3) &&& 0x1f)) = v4 := by
  rw [step_first (((v3) &&& 0xf)) v4 25 21 4 15 rfl rfl (by norm_num) hv]
  rw [step_mid v4 21 13 rfl]
  rw [step_mid v4 13 5 rfl]
  rw [step_last v4 (((v5 >>> 22) &&& 0x7)) 3 5 31 rfl rfl
    (Nat.and_lt_two_pow _ (by norm_num))]

theorem upb25_c5 (v4 v5 v6 : Nat) (hv : v5 < 2 ^ 25) :
    (((((u8 (((((v4) &&& 0x1f) <<< 3) ||| ((v5 >>> 22) &&& 0x7))))) &&& 0x7)) <<< 22) ||| ((((u8 (((v5 >>> 14) &&& 0xff))))) <<< 14) ||| ((((u8 (((v5 >>> 6) &&& 0xff))))) <<< 6) ||| ((((u8 (((((v5) &&& 0x3f) <<< 2) ||| ((v6 >>> 23) &&& 0x3)))) >>> 2) &&& 0x3f)) = v5 := by
  rw [step_first (((v4) &&& 0x1f)) v5 25 22 3 7 rfl rfl (by norm_num) hv]
  rw [step_mid v5 22 14 rfl]
  rw [step_mid v5 14 6 rfl]
  rw [step_last v5 (((v6 >>> 23) &&& 0x3)) 2 6 63 rfl rfl
    (Nat.and_lt_two_pow _ (by norm_num))]

theorem upb25_c6 (v5 v6 v7 : Nat) (hv : v6 < 2 ^ 25) :
    (((((u8 (((((v5) &&& 0x3f) <<< 2) ||| ((v6 >>> 23) &&& 0x3))))) &&& 0x3)) <<< 23) ||| ((((u8 (((v6 >>> 15) &&& 0xff))))) <<< 15) ||| ((((u8 (((v6 >>> 7) &&& 0xff))))) <<< 7) ||| ((((u8 (((((v6) &&& 0x7f) <<< 1) ||| ((v7 >>> 24) &&& 0x1)))) >>> 1) &&& 0x7f)) = v6 := by
  rw [step_first (((v5) &&& 0x3f)) v6 25 23 2 3 rfl rfl (by norm_num) hv]
  rw [step_mid v6 23 15 rfl]
  rw [step_mid v6 15 7 rfl]
  rw [step_last v6 (((v7 >>> 24) &&& 0x1)) 1 7 127 rfl rfl
    (Nat.and_lt_two_pow _ (by norm_num))]

theorem upb25_c7 (v6 v7 : Nat) (hv : v7 < 2 ^ 25) :
    (((((u8 (((((v6) &&& 0x7f) <<< 1) ||| ((v7 >>> 24) &&& 0x1))))) &&& 0x1)) <<< 24) ||| ((((u8 (((v7 >>> 16) &&& 0xff))))) <<< 16) ||| ((((u8 (((v7 >>> 8) &&& 0xff))))) <<< 8) ||| (((u8 (((v7) &&& 0xff))))) = v7 := by
  rw [step_first (((v6) &&& 0x7f)) v7 25 24 1 1 rfl rfl (by norm_num) hv]
  rw [step_mid v7 24 16 rfl]
  rw [step_mid v7 16 8 rfl]
  rw [step_low v7]

theorem unpack_pack_bits_25 (v0 v1 v2 v3 v4 v5 v6 v7 : Nat)
    (h0 : v0 < 2 ^ 25) (h1 : v1 < 2 ^ 25) (h2 : v2 < 2 ^ 25) (h3 : v3 < 2 ^ 25) (h4 : v4 < 2 ^ 25) (h5 : v5 < 2 ^ 25) (h6 : v6 < 2 ^ 25) (h7 : v7 < 2 ^ 25) :
    unpack_bits_25 (pack_bits_25 v0 v1 v2 v3 v4 v5 v6 v7) =
      [v0, v1, v2, v3, v4, v5, v6, v7] := by
  have key : unpack_bits_25 (pack_bits_25 v0 v1 v2 v3 v4 v5 v6 v7) =
      [ ((((u8 (((v0 >>> 17) &&& 0xff))))) <<< 17) ||| ((((u8 (((v0 >>> 9) &&& 0xff))))) <<< 9) ||| ((((u8 (((v0 >>> 1) &&& 0xff))))) <<< 1) ||| ((((u8 (((((v0) &&& 0x1) <<< 7) ||| ((v1 >>> 18) &&& 0x7f)))) >>> 7) &&& 0x1)),
        (((((u8 (((((v0) &&& 0x1) <<< 7) ||| ((v1 >>> 18) &&& 0x7f))))) &&& 0x7f)) <<< 18) ||| ((((u8 (((v1 >>> 10) &&& 0xff))))) <<< 10) ||| ((((u8 (((v1 >>> 2) &&& 0xff))))) <<< 2) ||| ((((u8 (((((v1) &&& 0x3) <<< 6) ||| ((v2 >>> 19) &&& 0x3f)))) >>> 6) &&& 0x3)),
        (((((u8 (((((v1) &&& 0x3) <<< 6) ||| ((v2 >>> 19) &&& 0x3f))))) &&& 0x3f)) <<< 19) ||| ((((u8 (((v2 >>> 11) &&& 0xff))))) <<< 11) ||| ((((u8 (((v2 >>> 3) &&& 0xff))))) <<< 3) ||| ((((u8 (((((v2) &&& 0x7) <<< 5) ||| ((v3 >>> 20) &&& 0x1f)))) >>> 5) &&& 0x7)),
        (((((u8 (((((v2) &&& 0x7) <<< 5) ||| ((v3 >>> 20) &&& 0x1f))))) &&& 0x1f)) <<< 20) ||| ((((u8 (((v3 >>> 12) &&& 0xff))))) <<< 12) ||| ((((u8 (((v3 >>> 4) &&& 0xff))))) <<< 4) ||| ((((u8 (((((v3) &&& 0xf) <<< 4) ||| ((v4 >>> 21) &&& 0xf)))) >>> 4) &&& 0xf)),
        (((((u8 (((((v3) &&& 0xf) <<< 4) ||| ((v4 >>> 21) &&& 0xf))))) &&& 0xf)) <<< 21) ||| ((((u8 (((v4 >>> 13) &&& 0xff))))) <<< 13) ||| ((((u8 (((v4 >>> 5) &&& 0xff))))) <<< 5) ||| ((((u8 (((((v4) &&& 0x1f) <<< 3) ||| ((v5 >>> 22) &&& 0x7)))) >>> 3) &&& 0x1f)),
        (((((u8 (((((v4) &&& 0x1f) <<< 3) ||| ((v5 >>> 22) &&& 0x7))))) &&& 0x7)) <<< 22) ||| ((((u8 (((v5 >>> 14) &&& 0xff))))) <<< 14) ||| ((((u8 (((v5 >>> 6) &&& 0xff))))) <<< 6) ||| ((((u8 (((((v5) &&& 0x3f) <<< 2) ||| ((v6 >>> 23) &&& 0x3)))) >>> 2) &&& 0x3f)),
        (((((u8 (((((v5) &&& 0x3f) <<< 2) ||| ((v6 >>> 23) &&& 0x3))))) &&& 0x3)) <<< 23) ||| ((((u8 (((v6 >>> 15) &&& 0xff))))) <<< 15) ||| ((((u8 (((v6 >>> 7) &&& 0xff))))) <<< 7) ||| ((((u8 (((((v6) &&& 0x7f) <<< 1) ||| ((v7 >>> 24) &&& 0x1)))) >>> 1) &&& 0x7f)),
        (((((u8 (((((v6) &&& 0x7f) <<< 1) ||| ((v7 >>> 24) &&& 0x1))))) &&& 0x1)) <<< 24) ||| ((((u8 (((v7 >>> 16) &&& 0xff))))) <<< 16) ||| ((((u8 (((v7 >>> 8) &&& 0xff))))) <<< 8) ||| (((u8 (((v7) &&& 0xff))))) ] := rfl
  rw [key]
  rw [upb25_c0 v0 v1 h0,
    upb25_c1 v0 v1 v2 h1,
    upb25_c2 v1 v2 v3 h2,
    upb25_c3 v2 v3 v4 h3,
    upb25_c4 v3 v4 v5 h4,
    upb25_c5 v4 v5 v6 h5,
    upb25_c6 v5 v6 v7 h6,
    upb25_c7 v6 v7 h7]

theorem upb26_c0 (v0 v1 : Nat) (hv : v0 < 2 ^ 26) :
    ((((u8 (((v0 >>> 18) &&& 0xff))))) <<< 18) ||| ((((u8 (((v0 >>> 10) &&& 0xff))))) <<< 10) ||| ((((u8 (((v0 >>> 2) &&& 0xff))))) <<< 2) ||| ((((u8 (((((v0) &&& 0x3) <<< 6) ||| ((v1 >>> 20) &&& 0x3f)))) >>> 6) &&& 0x3)) = v0 := by
  rw [step_top v0 26 18 rfl hv]
  rw [step_mid v0 18 10 rfl]
  rw [step_mid v0 10 2 rfl]
  rw [step_last v0 (((v1 >>> 20) &&& 0x3f)) 6 2 3 rfl rfl
    (Nat.and_lt_two_pow _ (by norm_num))]

theorem upb26_c1 (v0 v1 v2 : Nat) (hv : v1 < 2 ^ 26) :
    (((((u8 (((((v0) &&& 0x3) <<< 6) ||| ((v1 >>> 20) &&& 0x3f))))) &&& 0x3f)) <<< 20) ||| ((((u8 (((v1 >>> 12) &&& 0xff))))) <<< 12) ||| ((((u8 (((v1 >>> 4) &&& 0xff))))) <<< 4) ||| ((((u8 (((((v1) &&& 0xf) <<< 4) ||| ((v2 >>> 22) &&& 0xf)))) >>> 4) &&& 0xf)) = v1 := by
  rw [step_first (((v0) &&& 0x3)) v1 26 20 6 63 rfl rfl (by norm_num) hv]
  rw [step_mid v1 20 12 rfl]
  rw [step_mid v1 12 4 rfl]
  rw [step_last v1 (((v2 >>> 22) &&& 0xf)) 4 4 15 rfl rfl
    (Nat.and_lt_two_pow _ (by norm_num))]

theorem upb26_c2 (v1 v2 v3 : Nat) (hv : v2 < 2 ^ 26) :
    (((((u8 (((((v1) &&& 0xf) <<< 4) ||| ((v2 >>> 22) &&& 0xf))))) &&& 0xf)) <<< 22) ||| ((((u8 (((v2 >>> 14) &&& 0xff))))) <<< 14) ||| ((((u8 (((v2 >>> 6) &&& 0xff))))) <<< 6) ||| ((((u8 (((((v2) &&& 0x3f) <<< 2) ||| ((v3 >>> 24) &&& 0x3)))) >>> 2) &&& 0x3f)) = v2 := by
  rw [step_first (((v1) &&& 0xf)) v2 26 22 4 15 rfl rfl (by norm_num) hv]
  rw [step_mid v2 22 14 rfl]
  rw [step_mid v2 14 6 rfl]
  rw [step_last v2 (((v3 >>> 24) &&& 0x3)) 2 6 63 rfl rfl
    (Nat.and_lt_two_pow _ (by norm_num))]

theorem upb26_c3 (v2 v3 : Nat) (hv : v3 < 2 ^ 26) :
    (((((u8 (((((v2) &&& 0x3f) <<< 2) ||| ((v3 >>> 24) &&& 0x3))))) &&& 0x3)) <<< 24) ||| ((((u8 (((v3 >>> 16) &&& 0xff))))) <<< 16) ||| ((((u8 (((v3 >>> 8) &&& 0xff))))) <<< 8) ||| (((u8 (((v3) &&& 0xff))))) = v3 := by
  rw [step_first (((v2) &&& 0x3f)) v3 26 24 2 3 rfl rfl (by norm_num) hv]
  rw [step_mid v3 24 16 rfl]
  rw [step_mid v3 16 8 rfl]
  rw [step_low v3]

theorem upb26_c4 (v4 v5 : Nat) (hv : v4 < 2 ^ 26) :
    ((((u8 (((v4 >>> 18) &&& 0xff))))) <<< 18) ||| ((((u8 (((v4 >>> 10) &&& 0xff))))) <<< 10) ||| ((((u8 (((v4 >>> 2) &&& 0xff))))) <<< 2) ||| ((((u8 (((((v4) &&& 0x3) <<< 6) ||| ((v5 >>> 20) &&& 0x3f)))) >>> 6) &&& 0x3)) = v4 := by
  rw [step_top v4 26 18 rfl hv]
  rw [step_mid v4 18 10 rfl]
  rw [step_mid v4 10 2 rfl]
  rw [step_last v4 (((v5 >>> 20) &&& 0x3f)) 6 2 3 rfl rfl
    (Nat.and_lt_two_pow _ (by norm_num))]

theorem upb26_c5 (v4 v5 v6 : Nat) (hv : v5 < 2 ^ 26) :
    (((((u8 (((((v4) &&& 0x3) <<< 6) ||| ((v5 >>> 20) &&& 0x3f))))) &&& 0x3f)) <<< 20) ||| ((((u8 (((v5 >>> 12) &&& 0xff))))) <<< 12) ||| ((((u8 (((v5 >>> 4) &&& 0xff))))) <<< 4) ||| ((((u8 (((((v5) &&& 0xf) <<< 4) ||| ((v6 >>> 22) &&& 0xf)))) >>> 4) &&& 0xf)) = v5 := by
  rw [step_first (((v4) &&& 0x3)) v5 26 20 6 63 rfl rfl (by norm_num) hv]
  rw [step_mid v5 20 12 rfl]
  rw [step_mid v5 12 4 rfl]
  rw [step_last v5 (((v6 >>> 22) &&& 0xf)) 4 4 15 rfl rfl
    (Nat.and_lt_two_pow _ (by norm_num))]

theorem upb26_c6 (v5 v6 v7 : Nat) (hv : v6 < 2 ^ 26) :
    (((((u8 (((((v5) &&& 0xf) <<< 4) ||| ((v6 >>> 22) &&& 0xf))))) &&& 0xf)) <<< 22) ||| ((((u8 (((v6 >>> 14) &&& 0xff))))) <<< 14) ||| ((((u8 (((v6 >>> 6) &&& 0xff))))) <<< 6) ||| ((((u8 (((((v6) &&& 0x3f) <<< 2) ||| ((v7 >>> 24) &&& 0x3)))) >>> 2) &&& 0x3f)) = v6 := by
  rw [step_first (((v5) &&& 0xf)) v6 26 22 4 15 rfl rfl (by norm_num) hv]
  rw [step_mid v6 22 14 rfl]
  rw [step_mid v6 14 6 rfl]
  rw [step_last v6 (((v7 >>> 24) &&& 0x3)) 2 6 63 rfl rfl
    (Nat.and_lt_two_pow _ (by norm_num))]

theorem upb26_c7 (v6 v7 : Nat) (hv : v7 < 2 ^ 26) :
    (((((u8 (((((v6) &&& 0x3f) <<< 2) ||| ((v7 >>> 24) &&& 0x3))))) &&& 0x3)) <<< 24) ||| ((((u8 (((v7 >>> 16) &&& 0xff))))) <<< 16) ||| ((((u8 (((v7 >>> 8) &&& 0xff))))) <<< 8) ||| (((u8 (((v7) &&& 0xff))))) = v7 := by
  rw [step_first (((v6) &&& 0x3f)) v7 26 24 2 3 rfl rfl (by norm_num) hv]
  rw [step_mid v7 24 16 rfl]
  rw [step_mid v7 16 8 rfl]
  rw [step_low v7]

theorem unpack_pack_bits_26 (v0 v1 v2 v3 v4 v5 v6 v7 : Nat)
    (h0 : v0 < 2 ^ 26) (h1 : v1 < 2 ^ 26) (h2 : v2 < 2 ^ 26) (h3 : v3 < 2 ^ 26) (h4 : v4 < 2 ^ 26) (h5 : v5 < 2 ^ 26) (h6 : v6 < 2 ^ 26) (h7 : v7 < 2 ^ 26) :
    unpack_bits_26 (pack_bits_26 v0 v1 v2 v3 v4 v5 v6 v7) =
      [v0, v1, v2, v3, v4, v5, v6, v7] := by
  have key : unpack_bits_26 (pack_bits_26 v0 v1 v2 v3 v4 v5 v6 v7) =
      [ ((((u8 (((v0 >>> 18) &&& 0xff))))) <<< 18) ||| ((((u8 (((v0 >>> 10) &&& 0xff))))) <<< 10) ||| ((((u8 (((v0 >>> 2) &&& 0xff))))) <<< 2) ||| ((((u8 (((((v0) &&& 0x3) <<< 6) ||| ((v1 >>> 20) &&& 0x3f)))) >>> 6) &&& 0x3)),
        (((((u8 (((((v0) &&& 0x3) <<< 6) ||| ((v1 >>> 20) &&& 0x3f))))) &&& 0x3f)) <<< 20) ||| ((((u8 (((v1 >>> 12) &&& 0xff))))) <<< 12) ||| ((((u8 (((v1 >>> 4) &&& 0xff))))) <<< 4) ||| ((((u8 (((((v1) &&& 0xf) <<< 4) ||| ((v2 >>> 22) &&& 0xf)))) >>> 4) &&& 0xf)),
        (((((u8 (((((v1) &&& 0xf) <<< 4) ||| ((v2 >>> 22) &&& 0xf))))) &&& 0xf)) <<< 22) ||| ((((u8 (((v2 >>> 14) &&& 0xff))))) <<< 14) ||| ((((u8 (((v2 >>> 6) &&& 0xff))))) <<< 6) ||| ((((u8 (((((v2) &&& 0x3f) <<< 2) ||| ((v3 >>> 24) &&& 0x3)))) >>> 2) &&& 0x3f)),
        (((((u8 (((((v2) &&& 0x3f) <<< 2) ||| ((v3 >>> 24) &&& 0x3))))) &&& 0x3)) <<< 24) ||| ((((u8 (((v3 >>> 16) &&& 0xff))))) <<< 16) ||| ((((u8 (((v3 >>> 8) &&& 0xff))))) <<< 8) ||| (((u8 (((v3) &&& 0xff))))),
        ((((u8 (((v4 >>> 18) &&& 0xff))))) <<< 18) ||| ((((u8 (((v4 >>> 10) &&& 0xff))))) <<< 10) ||| ((((u8 (((v4 >>> 2) &&& 0xff))))) <<< 2) ||| ((((u8 (((((v4) &&& 0x3) <<< 6) ||| ((v5 >>> 20) &&& 0x3f)))) >>> 6) &&& 0x3)),
        (((((u8 (((((v4) &&& 0x3) <<< 6) ||| ((v5 >>> 20) &&& 0x3f))))) &&& 0x3f)) <<< 20) ||| ((((u8 (((v5 >>> 12) &&& 0xff))))) <<< 12) ||| ((((u8 (((v5 >>> 4) &&& 0xff))))) <<< 4) ||| ((((u8 (((((v5) &&& 0xf) <<< 4) ||| ((v6 >>> 22) &&& 0xf)))) >>> 4) &&& 0xf)),
        (((((u8 (((((v5) &&& 0xf) <<< 4) ||| ((v6 >>> 22) &&& 0xf))))) &&& 0xf)) <<< 22) ||| ((((u8 (((v6 >>> 14) &&& 0xff))))) <<< 14) ||| ((((u8 (((v6 >>> 6) &&& 0xff))))) <<< 6) ||| ((((u8 (((((v6) &&& 0x3f) <<< 2) ||| ((v7 >>> 24) &&& 0x3)))) >>> 2) &&& 0x3f)),
        (((((u8 (((((v6) &&& 0x3f) <<< 2) ||| ((v7 >>> 24) &&& 0x3))))) &&& 0x3)) <<< 24) ||| ((((u8 (((v7 >>> 16) &&& 0xff))))) <<< 16) ||| ((((u8 (((v7 >>> 8) &&& 0xff))))) <<< 8) ||| (((u8 (((v7) &&& 0xff))))) ] := rfl
  rw [key]
  rw [upb26_c0 v0 v1 h0,
    upb26_c1 v0 v1 v2 h1,
    upb26_c2 v1 v2 v3 h2,
    upb26_c3 v2 v3 h3,
    upb26_c4 v4 v5 h4,
    upb26_c5 v4 v5 v6 h5,
    upb26_c6 v5 v6 v7 h6,
    upb26_c7 v6 v7 h7]

theorem upb27_c0 (v0 v1 : Nat) (hv : v0 < 2 ^ 27) :
    ((((u8 (((v0 >>> 19) &&& 0xff))))) <<< 19) ||| ((((u8 (((v0 >>> 11) &&& 0xff))))) <<< 11) ||| ((((u8 (((v0 >>> 3) &&& 0xff))))) <<< 3) ||| ((((u8 (((((v0) &&& 0x7) <<< 5) ||| ((v1 >>> 22) &&& 0x1f)))) >>> 5) &&& 0x7)) = v0 := by
  rw [step_top v0 27 19 rfl hv]
  rw [step_mid v0 19 11 rfl]
  rw [step_mid v0 11 3 rfl]
  rw [step_last v0 (((v1 >>> 22) &&& 0x1f)) 5 3 7 rfl rfl
    (Nat.and_lt_two_pow _ (by norm_num))]

theorem upb27_c1 (v0 v1 v2 : Nat) (hv : v1 < 2 ^ 27) :
    (((((u8 (((((v0) &&& 0x7) <<< 5) ||| ((v1 >>> 22) &&& 0x1f))))) &&& 0x1f)) <<< 22) ||| ((((u8 (((v1 >>> 14) &&& 0xff))))) <<< 14) ||| ((((u8 (((v1 >>> 6) &&& 0xff))))) <<< 6) ||| ((((u8 (((((v1) &&& 0x3f) <<< 2) ||| ((v2 >>> 25) &&& 0x3)))) >>> 2) &&& 0x3f)) = v1 := by
  rw [step_first (((v0) &&& 0x7)) v1 27 22 5 31 rfl rfl (by norm_num) hv]
  rw [step_mid v1 22 14 rfl]
  rw [step_mid v1 14 6 rfl]
  rw [step_last v1 (((v2 >>> 25) &&& 0x3)) 2 6 63 rfl rfl
    (Nat.and_lt_two_pow _ (by norm_num))]

theorem upb27_c2 (v1 v2 v3 : Nat) (hv : v2 < 2 ^ 27) :
    (((((u8 (((((v1) &&& 0x3f) <<< 2) ||| ((v2 >>> 25) &&& 0x3))))) &&& 0x3)) <<< 25) ||| ((((u8 (((v2 >>> 17) &&& 0xff))))) <<< 17) ||| ((((u8 (((v2 >>> 9) &&& 0xff))))) <<< 9) ||| ((((u8 (((v2 >>> 1) &&& 0xff))))) <<< 1) ||| ((((u8 (((((v2) &&& 0x1) <<< 7) ||| ((v3 >>> 20) &&& 0x7f)))) >>> 7) &&& 0x1)) = v2 := by
  rw [step_first (((v1) &&& 0x3f)) v2 27 25 2 3 rfl rfl (by norm_num) hv]
  rw [step_mid v2 25 17 rfl]
  rw [step_mid v2 17 9 rfl]
  rw [step_mid v2 9 1 rfl]
  rw [step_last v2 (((v3 >>> 20) &&& 0x7f)) 7 1 1 rfl rfl
    (Nat.and_lt_two_pow _ (by norm_num))]

theorem upb27_c3 (v2 v3 v4 : Nat) (hv : v3 < 2 ^ 27) :
    (((((u8 (((((v2) &&& 0x1) <<< 7) ||| ((v3 >>> 20) &&& 0x7f))))) &&& 0x7f)) <<< 20) ||| ((((u8 (((v3 >>> 12) &&& 0xff))))) <<< 12) ||| ((((u8 (((v3 >>> 4) &&& 0xff))))) <<< 4) ||| ((((u8 (((((v3) &&& 0xf) <<< 4) ||| ((v4 >>> 23) &&& 0xf)))) >>> 4) &&& 0xf)) = v3 := by
  rw [step_first (((v2) &&& 0x1)) v3 27 20 7 127 rfl rfl (by norm_num) hv]
  rw [step_mid v3 20 12 rfl]
  rw [step_mid v3 12 4 rfl]
  rw [step_last v3 (((v4 >>> 23) &&& 0xf)) 4 4 15 rfl rfl
    (Nat.and_lt_two_pow _ (by norm_num))]

theorem upb27_c4 (v3 v4 v5 : Nat) (hv : v4 < 2 ^ 27) :
    (((((u8 (((((v3) &&& 0xf) <<< 4) ||| ((v4 >>> 23) &&& 0xf))))) &&& 0xf)) <<< 23) ||| ((((u8 (((v4 >>> 15) &&& 0xff))))) <<< 15) ||| ((((u8 (((v4 >>> 7) &&& 0xff))))) <<< 7) ||| ((((u8 (((((v4) &&& 0x7f) <<< 1) ||| ((v5 >>> 26) &&& 0x1)))) >>> 1) &&& 0x7f)) = v4 := by
  rw [step_first (((v3) &&& 0xf)) v4 27 23 4 15 rfl rfl (by norm_num) hv]
  rw [step_mid v4 23 15 rfl]
  rw [step_mid v4 15 7 rfl]
  rw [step_last v4 (((v5 >>> 26) &&& 0x1)) 1 7 127 rfl rfl
    (Nat.and_lt_two_pow _ (by norm_num))]

theorem upb27_c5 (v4 v5 v6 : Nat) (hv : v5 < 2 ^ 27) :
    (((((u8 (((((v4) &&& 0x7f) <<< 1) ||| ((v5 >>> 26) &&& 0x1))))) &&& 0x1)) <<< 26) ||| ((((u8 (((v5 >>> 18) &&& 0xff))))) <<< 18) ||| ((((u8 (((v5 >>> 10) &&& 0xff))))) <<< 10) ||| ((((u8 (((v5 >>> 2) &&& 0xff))))) <<< 2) ||| ((((u8 (((((v5) &&& 0x3) <<< 6) ||| ((v6 >>> 21) &&& 0x3f)))) >>> 6) &&& 0x3)) = v5 := by
  rw [step_first (((v4) &&& 0x7f)) v5 27 26 1 1 rfl rfl (by norm_num) hv]
  rw [step_mid v5 26 18 rfl]
  rw [step_mid v5 18 10 rfl]
  rw [step_mid v5 10 2 rfl]
  rw [step_last v5 (((v6 >>> 21) &&& 0x3f)) 6 2 3 rfl rfl
    (Nat.and_lt_two_pow _ (by norm_num))]

theorem upb27_c6 (v5 v6 v7 : Nat) (hv : v6 < 2 ^ 27) :
    (((((u8 (((((v5) &&& 0x3) <<< 6) ||| ((v6 >>> 21) &&& 0x3f))))) &&& 0x3f)) <<< 21) ||| ((((u8 (((v6 >>> 13) &&& 0xff))))) <<< 13) ||| ((((u8 (((v6 >>> 5) &&& 0xff))))) <<< 5) ||| ((((u8 (((((v6) &&& 0x1f) <<< 3) ||| ((v7 >>> 24) &&& 0x7)))) >>> 3) &&& 0x1f)) = v6 := by
  rw [step_first (((v5) &&& 0x3)) v6 27 21 6 63 rfl rfl (by norm_num) hv]
  rw [step_mid v6 21 13 rfl]
  rw [step_mid v6 13 5 rfl]
  rw [step_last v6 (((v7 >>> 24) &&& 0x7)) 3 5 31 rfl rfl
    (Nat.and_lt_two_pow _ (by norm_num))]

theorem upb27_c7 (v6 v7 : Nat) (hv : v7 < 2 ^ 27) :
    (((((u8 (((((v6) &&& 0x1f) <<< 3) ||| ((v7 >>> 24) &&& 0x7))))) &&& 0x7)) <<< 24) ||| ((((u8 (((v7 >>> 16) &&& 0xff))))) <<< 16) ||| ((((u8 (((v7 >>> 8) &&& 0xff))))) <<< 8) ||| (((u8 (((v7) &&& 0xff))))) = v7 := by
  rw [step_first (((v6) &&& 0x1f)) v7 27 24 3 7 rfl rfl (by norm_num) hv]
  rw [step_mid v7 24 16 rfl]
  rw [step_mid v7 16 8 rfl]
  rw [step_low v7]

theorem unpack_pack_bits_27 (v0 v1 v2 v3 v4 v5 v6 v7 : Nat)
    (h0 : v0 < 2 ^ 27) (h1 : v1 < 2 ^ 27) (h2 : v2 < 2 ^ 27) (h3 : v3 < 2 ^ 27) (h4 : v4 < 2 ^ 27) (h5 : v5 < 2 ^ 27) (h6 : v6 < 2 ^ 27) (h7 : v7 < 2 ^ 27) :
    unpack_bits_27 (pack_bits_27 v0 v1 v2 v3 v4 v5 v6 v7) =
      [v0, v1, v2, v3, v4, v5, v6, v7] := by
  have key : unpack_bits_27 (pack_bits_27 v0 v1 v2 v3 v4 v5 v6 v7) =
      [ ((((u8 (((v0 >>> 19) &&& 0xff))))) <<< 19) ||| ((((u8 (((v0 >>> 11) &&& 0xff))))) <<< 11) ||| ((((u8 (((v0 >>> 3) &&& 0xff))))) <<< 3) ||| ((((u8 (((((v0) &&& 0x7) <<< 5) ||| ((v1 >>> 22) &&& 0x1f)))) >>> 5) &&& 0x7)),
        (((((u8 (((((v0) &&& 0x7) <<< 5) ||| ((v1 >>> 22) &&& 0x1f))))) &&& 0x1f)) <<< 22) ||| ((((u8 (((v1 >>> 14) &&& 0xff))))) <<< 14) ||| ((((u8 (((v1 >>> 6) &&& 0xff))))) <<< 6) ||| ((((u8 (((((v1) &&& 0x3f) <<< 2) ||| ((v2 >>> 25) &&& 0x3)))) >>> 2) &&& 0x3f)),
        (((((u8 (((((v1) &&& 0x3f) <<< 2) ||| ((v2 >>> 25) &&& 0x3))))) &&& 0x3)) <<< 25) ||| ((((u8 (((v2 >>> 17) &&& 0xff))))) <<< 17) ||| ((((u8 (((v2 >>> 9) &&& 0xff))))) <<< 9) ||| ((((u8 (((v2 >>> 1) &&& 0xff))))) <<< 1) ||| ((((u8 (((((v2) &&& 0x1) <<< 7) ||| ((v3 >>> 20) &&& 0x7f)))) >>> 7) &&& 0x1)),
        (((((u8 (((((v2) &&& 0x1) <<< 7) ||| ((v3 >>> 20) &&& 0x7f))))) &&& 0x7f)) <<< 20) ||| ((((u8 (((v3 >>> 12) &&& 0xff))))) <<< 12) ||| ((((u8 (((v3 >>> 4) &&& 0xff))))) <<< 4) ||| ((((u8 (((((v3) &&& 0xf) <<< 4) ||| ((v4 >>> 23) &&& 0xf)))) >>> 4) &&& 0xf)),
        (((((u8 (((((v3) &&& 0xf) <<< 4) ||| ((v4 >>> 23) &&& 0xf))))) &&& 0xf)) <<< 23) ||| ((((u8 (((v4 >>> 15) &&& 0xff))))) <<< 15) ||| ((((u8 (((v4 >>> 7) &&& 0xff))))) <<< 7) ||| ((((u8 (((((v4) &&& 0x7f) <<< 1) ||| ((v5 >>> 26) &&& 0x1)))) >>> 1) &&& 0x7f)),
        (((((u8 (((((v4) &&& 0x7f) <<< 1) ||| ((v5 >>> 26) &&& 0x1))))) &&& 0x1)) <<< 26) ||| ((((u8 (((v5 >>> 18) &&& 0xff))))) <<< 18) ||| ((((u8 (((v5 >>> 10) &&& 0xff))))) <<< 10) ||| ((((u8 (((v5 >>> 2) &&& 0xff))))) <<< 2) ||| ((((u8 (((((v5) &&& 0x3) <<< 6) ||| ((v6 >>> 21) &&& 0x3f)))) >>> 6) &&& 0x3)),
        (((((u8 (((((v5) &&& 0x3) <<< 6) ||| ((v6 >>> 21) &&& 0x3f))))) &&& 0x3f)) <<< 21) ||| ((((u8 (((v6 >>> 13) &&& 0xff))))) <<< 13) ||| ((((u8 (((v6 >>> 5) &&& 0xff))))) <<< 5) ||| ((((u8 (((((v6) &&& 0x1f) <<< 3) ||| ((v7 >>> 24) &&& 0x7)))) >>> 3) &&& 0x1f)),
        (((((u8 (((((v6) &&& 0x1f) <<< 3) ||| ((v7 >>> 24) &&& 0x7))))) &&& 0x7)) <<< 24) ||| ((((u8 (((v7 >>> 16) &&& 0xff))))) <<< 16) ||| ((((u8 (((v7 >>> 8) &&& 0xff))))) <<< 8) ||| (((u8 (((v7) &&& 0xff))))) ] := rfl
  rw [key]
  rw [upb27_c0 v0 v1 h0,
    upb27_c1 v0 v1 v2 h1,
    upb27_c2 v1 v2 v3 h2,
    upb27_c3 v2 v3 v4 h3,
    upb27_c4 v3 v4 v5 h4,
    upb27_c5 v4 v5 v6 h5,
    upb27_c6 v5 v6 v7 h6,
    upb27_c7 v6 v7 h7]

theorem upb28_c0 (v0 v1 : Nat) (hv : v0 < 2 ^ 28) :
    ((((u8 (((v0 >>> 20) &&& 0xff))))) <<< 20) ||| ((((u8 (((v0 >>> 12) &&& 0xff))))) <<< 12) ||| ((((u8 (((v0 >>> 4) &&& 0xff))))) <<< 4) ||| ((((u8 (((((v0) &&& 0xf) <<< 4) ||| ((v1 >>> 24) &&& 0xf)))) >>> 4) &&& 0xf)) = v0 := by
  rw [step_top v0 28 20 rfl hv]
  rw [step_mid v0 20 12 rfl]
  rw [step_mid v0 12 4 rfl]
  rw [step_last v0 (((v1 >>> 24) &&& 0xf)) 4 4 15 rfl rfl
    (Nat.and_lt_two_pow _ (by norm_num))]

theorem upb28_c1 (v0 v1 : Nat) (hv : v1 < 2 ^ 28) :
    (((((u8 (((((v0) &&& 0xf) <<< 4) ||| ((v1 >>> 24) &&& 0xf))))) &&& 0xf)) <<< 24) ||| ((((u8 (((v1 >>> 16) &&& 0xff))))) <<< 16) ||| ((((u8 (((v1 >>> 8) &&& 0xff))))) <<< 8) ||| (((u8 (((v1) &&& 0xff))))) = v1 := by
  rw [step_first (((v0) &&& 0xf)) v1 28 24 4 15 rfl rfl (by norm_num) hv]
  rw [step_mid v1 24 16 rfl]
  rw [step_mid v1 16 8 rfl]
  rw [step_low v1]

theorem upb28_c2 (v2 v3 : Nat) (hv : v2 < 2 ^ 28) :
    ((((u8 (((v2 >>> 20) &&& 0xff))))) <<< 20) ||| ((((u8 (((v2 >>> 12) &&& 0xff))))) <<< 12) ||| ((((u8 (((v2 >>> 4) &&& 0xff))))) <<< 4) ||| ((((u8 (((((v2) &&& 0xf) <<< 4) ||| ((v3 >>> 24) &&& 0xf)))) >>> 4) &&& 0xf)) = v2 := by
  rw [step_top v2 28 20 rfl hv]
  rw [step_mid v2 20 12 rfl]
  rw [step_mid v2 12 4 rfl]
  rw [step_last v2 (((v3 >>> 24) &&& 0xf)) 4 4 15 rfl rfl
    (Nat.and_lt_two_pow _ (by norm_num))]

theorem upb28_c3 (v2 v3 : Nat) (hv : v3 < 2 ^ 28) :
    (((((u8 (((((v2) &&& 0xf) <<< 4) ||| ((v3 >>> 24) &&& 0xf))))) &&& 0xf)) <<< 24) ||| ((((u8 (((v3 >>> 16) &&& 0xff))))) <<< 16) ||| ((((u8 (((v3 >>> 8) &&& 0xff))))) <<< 8) ||| (((u8 (((v3) &&& 0xff))))) = v3 := by
  rw [step_first (((v2) &&& 0xf)) v3 28 24 4 15 rfl rfl (by norm_num) hv]
  rw [step_mid v3 24 16 rfl]
  rw [step_mid v3 16 8 rfl]
  rw [step_low v3]

theorem upb28_c4 (v4 v5 : Nat) (hv : v4 < 2 ^ 28) :
    ((((u8 (((v4 >>> 20) &&& 0xff))))) <<< 20) ||| ((((u8 (((v4 >>> 12) &&& 0xff))))) <<< 12) ||| ((((u8 (((v4 >>> 4) &&& 0xff))))) <<< 4) ||| ((((u8 (((((v4) &&& 0xf) <<< 4) ||| ((v5 >>> 24) &&& 0xf)))) >>> 4) &&& 0xf)) = v4 := by
  rw [step_top v4 28 20 rfl hv]
  rw [step_mid v4 20 12 rfl]
  rw [step_mid v4 12 4 rfl]
  rw [step_last v4 (((v5 >>> 24) &&& 0xf)) 4 4 15 rfl rfl
    (Nat.and_lt_two_pow _ (by norm_num))]

theorem upb28_c5 (v4 v5 : Nat) (hv : v5 < 2 ^ 28) :
    (((((u8 (((((v4) &&& 0xf) <<< 4) ||| ((v5 >>> 24) &&& 0xf))))) &&& 0xf)) <<< 24) ||| ((((u8 (((v5 >>> 16) &&& 0xff))))) <<< 16) ||| ((((u8 (((v5 >>> 8) &&& 0xff))))) <<< 8) ||| (((u8 (((v5) &&& 0xff))))) = v5 := by
  rw [step_first (((v4) &&& 0xf)) v5 28 24 4 15 rfl rfl (by norm_num) hv]
  rw [step_mid v5 24 16 rfl]
  rw [step_mid v5 16 8 rfl]
  rw [step_low v5]

theorem upb28_c6 (v6 v7 : Nat) (hv : v6 < 2 ^ 28) :
    ((((u8 (((v6 >>> 20) &&& 0xff))))) <<< 20) ||| ((((u8 (((v6 >>> 12) &&& 0xff))))) <<< 12) ||| ((((u8 (((v6 >>> 4) &&& 0xff))))) <<< 4) ||| ((((u8 (((((v6) &&& 0xf) <<< 4) ||| ((v7 >>> 24) &&& 0xf)))) >>> 4) &&& 0xf)) = v6 := by
  rw [step_top v6 28 20 rfl hv]
  rw [step_mid v6 20 12 rfl]
  rw [step_mid v6 12 4 rfl]
  rw [step_last v6 (((v7 >>> 24) &&& 0xf)) 4 4 15 rfl rfl
    (Nat.and_lt_two_pow _ (by norm_num))]

theorem upb28_c7 (v6 v7 : Nat) (hv : v7 < 2 ^ 28) :
    (((((u8 (((((v6) &&& 0xf) <<< 4) ||| ((v7 >>> 24) &&& 0xf))))) &&& 0xf)) <<< 24) ||| ((((u8 (((v7 >>> 16) &&& 0xff))))) <<< 16) ||| ((((u8 (((v7 >>> 8) &&& 0xff))))) <<< 8) ||| (((u8 (((v7) &&& 0xff))))) = v7 := by
  rw [step_first (((v6) &&& 0xf)) v7 28 24 4 15 rfl rfl (by norm_num) hv]
  rw [step_mid v7 24 16 rfl]
  rw [step_mid v7 16 8 rfl]
  rw [step_low v7]

theorem unpack_pack_bits_28 (v0 v1 v2 v3 v4 v5 v6 v7 : Nat)
    (h0 : v0 < 2 ^ 28) (h1 : v1 < 2 ^ 28) (h2 : v2 < 2 ^ 28) (h3 : v3 < 2 ^ 28) (h4 : v4 < 2 ^ 28) (h5 : v5 < 2 ^ 28) (h6 : v6 < 2 ^ 28) (h7 : v7 < 2 ^ 28) :
    unpack_bits_28 (pack_bits_28 v0 v1 v2 v3 v4 v5 v6 v7) =
      [v0, v1, v2, v3, v4, v5, v6, v7] := by
  have key : unpack_bits_28 (pack_bits_28 v0 v1 v2 v3 v4 v5 v6 v7) =
      [ ((((u8 (((v0 >>> 20) &&& 0xff))))) <<< 20) ||| ((((u8 (((v0 >>> 12) &&& 0xff))))) <<< 12) ||| ((((u8 (((v0 >>> 4) &&& 0xff))))) <<< 4) ||| ((((u8 (((((v0) &&& 0xf) <<< 4) ||| ((v1 >>> 24) &&& 0xf)))) >>> 4) &&& 0xf)),
        (((((u8 (((((v0) &&& 0xf) <<< 4) ||| ((v1 >>> 24) &&& 0xf))))) &&& 0xf)) <<< 24) ||| ((((u8 (((v1 >>> 16) &&& 0xff))))) <<< 16) ||| ((((u8 (((v1 >>> 8) &&& 0xff))))) <<< 8) ||| (((u8 (((v1) &&& 0xff))))),
        ((((u8 (((v2 >>> 20) &&& 0xff))))) <<< 20) ||| ((((u8 (((v2 >>> 12) &&& 0xff))))) <<< 12) ||| ((((u8 (((v2 >>> 4) &&& 0xff))))) <<< 4) ||| ((((u8 (((((v2) &&& 0xf) <<< 4) ||| ((v3 >>> 24) &&& 0xf)))) >>> 4) &&& 0xf)),
        (((((u8 (((((v2) &&& 0xf) <<< 4) ||| ((v3 >>> 24) &&& 0xf))))) &&& 0xf)) <<< 24) ||| ((((u8 (((v3 >>> 16) &&& 0xff))))) <<< 16) ||| ((((u8 (((v3 >>> 8) &&& 0xff))))) <<< 8) ||| (((u8 (((v3) &&& 0xff))))),
        ((((u8 (((v4 >>> 20) &&& 0xff))))) <<< 20) ||| ((((u8 (((v4 >>> 12) &&& 0xff))))) <<< 12) ||| ((((u8 (((v4 >>> 4) &&& 0xff))))) <<< 4) ||| ((((u8 (((((v4) &&& 0xf) <<< 4) ||| ((v5 >>> 24) &&& 0xf)))) >>> 4) &&& 0xf)),
        (((((u8 (((((v4) &&& 0xf) <<< 4) ||| ((v5 >>> 24) &&& 0xf))))) &&& 0xf)) <<< 24) ||| ((((u8 (((v5 >>> 16) &&& 0xff))))) <<< 16) ||| ((((u8 (((v5 >>> 8) &&& 0xff))))) <<< 8) ||| (((u8 (((v5) &&& 0xff))))),
        ((((u8 (((v6 >>> 20) &&& 0xff))))) <<< 20) ||| ((((u8 (((v6 >>> 12) &&& 0xff))))) <<< 12) ||| ((((u8 (((v6 >>> 4) &&& 0xff))))) <<< 4) ||| ((((u8 (((((v6) &&& 0xf) <<< 4) ||| ((v7 >>> 24) &&& 0xf)))) >>> 4) &&& 0xf)),
        (((((u8 (((((v6) &&& 0xf) <<< 4) ||| ((v7 >>> 24) &&& 0xf))))) &&& 0xf)) <<< 24) ||| ((((u8 (((v7 >>> 16) &&& 0xff))))) <<< 16) ||| ((((u8 (((v7 >>> 8) &&& 0xff))))) <<< 8) ||| (((u8 (((v7) &&& 0xff))))) ] := rfl
  rw [key]
  rw [upb28_c0 v0 v1 h0,
    upb28_c1 v0 v1 h1,
    upb28_c2 v2 v3 h2,
    upb28_c3 v2 v3 h3,
    upb28_c4 v4 v5 h4,
    upb28_c5 v4 v5 h5,
    upb28_c6 v6 v7 h6,
    upb28_c7 v6 v7 h7]

theorem upb29_c0 (v0 v1 : Nat) (hv : v0 < 2 ^ 29) :
    ((((u8 (((v0 >>> 21) &&& 0xff))))) <<< 21) ||| ((((u8 (((v0 >>> 13) &&& 0xff))))) <<< 13) ||| ((((u8 (((v0 >>> 5) &&& 0xff))))) <<< 5) ||| ((((u8 (((((v0) &&& 0x1f) <<< 3) ||| ((v1 >>> 26) &&& 0x7)))) >>> 3) &&& 0x1f)) = v0 := by
  rw [step_top v0 29 21 rfl hv]
  rw [step_mid v0 21 13 rfl]
  rw [step_mid v0 13 5 rfl]
  rw [step_last v0 (((v1 >>> 26) &&& 0x7)) 3 5 31 rfl rfl
    (Nat.and_lt_two_pow _ (by norm_num))]

theorem upb29_c1 (v0 v1 v2 : Nat) (hv : v1 < 2 ^ 29) :
    (((((u8 (((((v0) &&& 0x1f) <<< 3) ||| ((v1 >>> 26) &&& 0x7))))) &&& 0x7)) <<< 26) ||| ((((u8 (((v1 >>> 18) &&& 0xff))))) <<< 18) ||| ((((u8 (((v1 >>> 10) &&& 0xff))))) <<< 10) ||| ((((u8 (((v1 >>> 2) &&& 0xff))))) <<< 2) ||| ((((u8 (((((v1) &&& 0x3) <<< 6) ||| ((v2 >>> 23) &&& 0x3f)))) >>> 6) &&& 0x3)) = v1 := by
  rw [step_first (((v0) &&& 0x1f)) v1 29 26 3 7 rfl rfl (by norm_num) hv]
  rw [step_mid v1 26 18 rfl]
  rw [step_mid v1 18 10 rfl]
  rw [step_mid v1 10 2 rfl]
  rw [step_last v1 (((v2 >>> 23) &&& 0x3f)) 6 2 3 rfl rfl
    (Nat.and_lt_two_pow _ (by norm_num))]

theorem upb29_c2 (v1 v2 v3 : Nat) (hv : v2 < 2 ^ 29) :
    (((((u8 (((((v1) &&& 0x3) <<< 6) ||| ((v2 >>> 23) &&& 0x3f))))) &&& 0x3f)) <<< 23) ||| ((((u8 (((v2 >>> 15) &&& 0xff))))) <<< 15) ||| ((((u8 (((v2 >>> 7) &&& 0xff))))) <<< 7) ||| ((((u8 (((((v2) &&& 0x7f) <<< 1) ||| ((v3 >>> 28) &&& 0x1)))) >>> 1) &&& 0x7f)) = v2 := by
  rw [step_first (((v1) &&& 0x3)) v2 29 23 6 63 rfl rfl (by norm_num) hv]
  rw [step_mid v2 23 15 rfl]
  rw [step_mid v2 15 7 rfl]
  rw [step_last v2 (((v3 >>> 28) &&& 0x1)) 1 7 127 rfl rfl
    (Nat.and_lt_two_pow _ (by norm_num))]

theorem upb29_c3 (v2 v3 v4 : Nat) (hv : v3 < 2 ^ 29) :
    (((((u8 (((((v2) &&& 0x7f) <<< 1) ||| ((v3 >>> 28) &&& 0x1))))) &&& 0x1)) <<< 28) ||| ((((u8 (((v3 >>> 20) &&& 0xff))))) <<< 20) ||| ((((u8 (((v3 >>> 12) &&& 0xff))))) <<< 12) ||| ((((u8 (((v3 >>> 4) &&& 0xff))))) <<< 4) ||| ((((u8 (((((v3) &&& 0xf) <<< 4) ||| ((v4 >>> 25) &&& 0xf)))) >>> 4) &&& 0xf)) = v3 := by
  rw [step_first (((v2) &&& 0x7f)) v3 29 28 1 1 rfl rfl (by norm_num) hv]
  rw [step_mid v3 28 20 rfl]
  rw [step_mid v3 20 12 rfl]
  rw [step_mid v3 12 4 rfl]
  rw [step_last v3 (((v4 >>> 25) &&& 0xf)) 4 4 15 rfl rfl
    (Nat.and_lt_two_pow _ (by norm_num))]

theorem upb29_c4 (v3 v4 v5 : Nat) (hv : v4 < 2 ^ 29) :
    (((((u8 (((((v3) &&& 0xf) <<< 4) ||| ((v4 >>> 25) &&& 0xf))))) &&& 0xf)) <<< 25) ||| ((((u8 (((v4 >>> 17) &&& 0xff))))) <<< 17) ||| ((((u8 (((v4 >>> 9) &&& 0xff))))) <<< 9) ||| ((((u8 (((v4 >>> 1) &&& 0xff))))) <<< 1) ||| ((((u8 (((((v4) &&& 0x1) <<< 7) ||| ((v5 >>> 22) &&& 0x7f)))) >>> 7) &&& 0x1)) = v4 := by
  rw [step_first (((v3) &&& 0xf)) v4 29 25 4 15 rfl rfl (by norm_num) hv]
  rw [step_mid v4 25 17 rfl]
  rw [step_mid v4 17 9 rfl]
  rw [step_mid v4 9 1 rfl]
  rw [step_last v4 (((v5 >>> 22) &&& 0x7f)) 7 1 1 rfl rfl
    (Nat.and_lt_two_pow _ (by norm_num))]

theorem upb29_c5 (v4 v5 v6 : Nat) (hv : v5 < 2 ^ 29) :
    (((((u8 (((((v4) &&& 0x1) <<< 7) ||| ((v5 >>> 22) &&& 0x7f))))) &&& 0x7f)) <<< 22) ||| ((((u8 (((v5 >>> 14) &&& 0xff))))) <<< 14) ||| ((((u8 (((v5 >>> 6) &&& 0xff))))) <<< 6) ||| ((((u8 (((((v5) &&& 0x3f) <<< 2) ||| ((v6 >>> 27) &&& 0x3)))) >>> 2) &&& 0x3f)) = v5 := by
  rw [step_first (((v4) &&& 0x1)) v5 29 22 7 127 rfl rfl (by norm_num) hv]
  rw [step_mid v5 22 14 rfl]
  rw [step_mid v5 14 6 rfl]
  rw [step_last v5 (((v6 >>> 27) &&& 0x3)) 2 6 63 rfl rfl
    (Nat.and_lt_two_pow _ (by norm_num))]

theorem upb29_c6 (v5 v6 v7 : Nat) (hv : v6 < 2 ^ 29) :
    (((((u8 (((((v5) &&& 0x3f) <<< 2) ||| ((v6 >>> 27) &&& 0x3))))) &&& 0x3)) <<< 27) ||| ((((u8 (((v6 >>> 19) &&& 0xff))))) <<< 19) ||| ((((u8 (((v6 >>> 11) &&& 0xff))))) <<< 11) ||| ((((u8 (((v6 >>> 3) &&& 0xff))))) <<< 3) ||| ((((u8 (((((v6) &&& 0x7) <<< 5) ||| ((v7 >>> 24) &&& 0x1f)))) >>> 5) &&& 0x7)) = v6 := by
  rw [step_first (((v5) &&& 0x3f)) v6 29 27 2 3 rfl rfl (by norm_num) hv]
  rw [step_mid v6 27 19 rfl]
  rw [step_mid v6 19 11 rfl]
  rw [step_mid v6 11 3 rfl]
  rw [step_last v6 (((v7 >>> 24) &&& 0x1f)) 5 3 7 rfl rfl
    (Nat.and_lt_two_pow _ (by norm_num))]

theorem upb29_c7 (v6 v7 : Nat) (hv : v7 < 2 ^ 29) :
    (((((u8 (((((v6) &&& 0x7) <<< 5) ||| ((v7 >>> 24) &&& 0x1f))))) &&& 0x1f)) <<< 24) ||| ((((u8 (((v7 >>> 16) &&& 0xff))))) <<< 16) ||| ((((u8 (((v7 >>> 8) &&& 0xff))))) <<< 8) ||| (((u8 (((v7) &&& 0xff))))) = v7 := by
  rw [step_first (((v6) &&& 0x7)) v7 29 24 5 31 rfl rfl (by norm_num) hv]
  rw [step_mid v7 24 16 rfl]
  rw [step_mid v7 16 8 rfl]
  rw [step_low v7]

theorem unpack_pack_bits_29 (v0 v1 v2 v3 v4 v5 v6 v7 : Nat)
    (h0 : v0 < 2 ^ 29) (h1 : v1 < 2 ^ 29) (h2 : v2 < 2 ^ 29) (h3 : v3 < 2 ^ 29) (h4 : v4 < 2 ^ 29) (h5 : v5 < 2 ^ 29) (h6 : v6 < 2 ^ 29) (h7 : v7 < 2 ^ 29) :
    unpack_bits_29 (pack_bits_29 v0 v1 v2 v3 v4 v5 v6 v7) =
      [v0, v1, v2, v3, v4, v5, v6, v7] := by
  have key : unpack_bits_29 (pack_bits_29 v0 v1 v2 v3 v4 v5 v6 v7) =
      [ ((((u8 (((v0 >>> 21) &&& 0xff))))) <<< 21) ||| ((((u8 (((v0 >>> 13) &&& 0xff))))) <<< 13) ||| ((((u8 (((v0 >>> 5) &&& 0xff))))) <<< 5) ||| ((((u8 (((((v0) &&& 0x1f) <<< 3) ||| ((v1 >>> 26) &&& 0x7)))) >>> 3) &&& 0x1f)),
        (((((u8 (((((v0) &&& 0x1f) <<< 3) ||| ((v1 >>> 26) &&& 0x7))))) &&& 0x7)) <<< 26) ||| ((((u8 (((v1 >>> 18) &&& 0xff))))) <<< 18) ||| ((((u8 (((v1 >>> 10) &&& 0xff))))) <<< 10) ||| ((((u8 (((v1 >>> 2) &&& 0xff))))) <<< 2) ||| ((((u8 (((((v1) &&& 0x3) <<< 6) ||| ((v2 >>> 23) &&& 0x3f)))) >>> 6) &&& 0x3)),
        (((((u8 (((((v1) &&& 0x3) <<< 6) ||| ((v2 >>> 23) &&& 0x3f))))) &&& 0x3f)) <<< 23) ||| ((((u8 (((v2 >>> 15) &&& 0xff))))) <<< 15) ||| ((((u8 (((v2 >>> 7) &&& 0xff))))) <<< 7) ||| ((((u8 (((((v2) &&& 0x7f) <<< 1) ||| ((v3 >>> 28) &&& 0x1)))) >>> 1) &&& 0x7f)),
        (((((u8 (((((v2) &&& 0x7f) <<< 1) ||| ((v3 >>> 28) &&& 0x1))))) &&& 0x1)) <<< 28) ||| ((((u8 (((v3 >>> 20) &&& 0xff))))) <<< 20) ||| ((((u8 (((v3 >>> 12) &&& 0xff))))) <<< 12) ||| ((((u8 (((v3 >>> 4) &&& 0xff))))) <<< 4) ||| ((((u8 (((((v3) &&& 0xf) <<< 4) ||| ((v4 >>> 25) &&& 0xf)))) >>> 4) &&& 0xf)),
        (((((u8 (((((v3) &&& 0xf) <<< 4) ||| ((v4 >>> 25) &&& 0xf))))) &&& 0xf)) <<< 25) ||| ((((u8 (((v4 >>> 17) &&& 0xff))))) <<< 17) ||| ((((u8 (((v4 >>> 9) &&& 0xff))))) <<< 9) ||| ((((u8 (((v4 >>> 1) &&& 0xff))))) <<< 1) ||| ((((u8 (((((v4) &&& 0x1) <<< 7) ||| ((v5 >>> 22) &&& 0x7f)))) >>> 7) &&& 0x1)),
        (((((u8 (((((v4) &&& 0x1) <<< 7) ||| ((v5 >>> 22) &&& 0x7f))))) &&& 0x7f)) <<< 22) ||| ((((u8 (((v5 >>> 14) &&& 0xff))))) <<< 14) ||| ((((u8 (((v5 >>> 6) &&& 0xff))))) <<< 6) ||| ((((u8 (((((v5) &&& 0x3f) <<< 2) ||| ((v6 >>> 27) &&& 0x3)))) >>> 2) &&& 0x3f)),
        (((((u8 (((((v5) &&& 0x3f) <<< 2) ||| ((v6 >>> 27) &&& 0x3))))) &&& 0x3)) <<< 27) ||| ((((u8 (((v6 >>> 19) &&& 0xff))))) <<< 19) ||| ((((u8 (((v6 >>> 11) &&& 0xff))))) <<< 11) ||| ((((u8 (((v6 >>> 3) &&& 0xff))))) <<< 3) ||| ((((u8 (((((v6) &&& 0x7) <<< 5) ||| ((v7 >>> 24) &&& 0x1f)))) >>> 5) &&& 0x7)),
        (((((u8 (((((v6) &&& 0x7) <<< 5) ||| ((v7 >>> 24) &&& 0x1f))))) &&& 0x1f)) <<< 24) ||| ((((u8 (((v7 >>> 16) &&& 0xff))))) <<< 16) ||| ((((u8 (((v7 >>> 8) &&& 0xff))))) <<< 8) ||| (((u8 (((v7) &&& 0xff))))) ] := rfl
  rw [key]
  rw [upb29_c0 v0 v1 h0,
    upb29_c1 v0 v1 v2 h1,
    upb29_c2 v1 v2 v3 h2,
    upb29_c3 v2 v3 v4 h3,
    upb29_c4 v3 v4 v5 h4,
    upb29_c5 v4 v5 v6 h5,
    upb29_c6 v5 v6 v7 h6,
    upb29_c7 v6 v7 h7]

theorem upb30_c0 (v0 v1 : Nat) (hv : v0 < 2 ^ 30) :
    ((((u8 (((v0 >>> 22) &&& 0xff))))) <<< 22) ||| ((((u8 (((v0 >>> 14) &&& 0xff))))) <<< 14) ||| ((((u8 (((v0 >>> 6) &&& 0xff))))) <<< 6) ||| ((((u8 (((((v0) &&& 0x3f) <<< 2) ||| ((v1 >>> 28) &&& 0x3)))) >>> 2) &&& 0x3f)) = v0 := by
  rw [step_top v0 30 22 rfl hv]
  rw [step_mid v0 22 14 rfl]
  rw [step_mid v0 14 6 rfl]
  rw [step_last v0 (((v1 >>> 28) &&& 0x3)) 2 6 63 rfl rfl
    (Nat.and_lt_two_pow _ (by norm_num))]

theorem upb30_c1 (v0 v1 v2 : Nat) (hv : v1 < 2 ^ 30) :
    (((((u8 (((((v0) &&& 0x3f) <<< 2) ||| ((v1 >>> 28) &&& 0x3))))) &&& 0x3)) <<< 28) ||| ((((u8 (((v1 >>> 20) &&& 0xff))))) <<< 20) ||| ((((u8 (((v1 >>> 12) &&& 0xff))))) <<< 12) ||| ((((u8 (((v1 >>> 4) &&& 0xff))))) <<< 4) ||| ((((u8 (((((v1) &&& 0xf) <<< 4) ||| ((v2 >>> 26) &&& 0xf)))) >>> 4) &&& 0xf)) = v1 := by
  rw [step_first (((v0) &&& 0x3f)) v1 30 28 2 3 rfl rfl (by norm_num) hv]
  rw [step_mid v1 28 20 rfl]
  rw [step_mid v1 20 12 rfl]
  rw [step_mid v1 12 4 rfl]
  rw [step_last v1 (((v2 >>> 26) &&& 0xf)) 4 4 15 rfl rfl
    (Nat.and_lt_two_pow _ (by norm_num))]

theorem upb30_c2 (v1 v2 v3 : Nat) (hv : v2 < 2 ^ 30) :
    (((((u8 (((((v1) &&& 0xf) <<< 4) ||| ((v2 >>> 26) &&& 0xf))))) &&& 0xf)) <<< 26) ||| ((((u8 (((v2 >>> 18) &&& 0xff))))) <<< 18) ||| ((((u8 (((v2 >>> 10) &&& 0xff))))) <<< 10) ||| ((((u8 (((v2 >>> 2) &&& 0xff))))) <<< 2) ||| ((((u8 (((((v2) &&& 0x3) <<< 6) ||| ((v3 >>> 24) &&& 0x3f)))) >>> 6) &&& 0x3)) = v2 := by
  rw [step_first (((v1) &&& 0xf)) v2 30 26 4 15 rfl rfl (by norm_num) hv]
  rw [step_mid v2 26 18 rfl]
  rw [step_mid v2 18 10 rfl]
  rw [step_mid v2 10 2 rfl]
  rw [step_last v2 (((v3 >>> 24) &&& 0x3f)) 6 2 3 rfl rfl
    (Nat.and_lt_two_pow _ (by norm_num))]

theorem upb30_c3 (v2 v3 : Nat) (hv : v3 < 2 ^ 30) :
    (((((u8 (((((v2) &&& 0x3) <<< 6) ||| ((v3 >>> 24) &&& 0x3f))))) &&& 0x3f)) <<< 24) ||| ((((u8 (((v3 >>> 16) &&& 0xff))))) <<< 16) ||| ((((u8 (((v3 >>> 8) &&& 0xff))))) <<< 8) ||| (((u8 (((v3) &&& 0xff))))) = v3 := by
  rw [step_first (((v2) &&& 0x3)) v3 30 24 6 63 rfl rfl (by norm_num) hv]
  rw [step_mid v3 24 16 rfl]
  rw [step_mid v3 16 8 rfl]
  rw [step_low v3]

theorem upb30_c4 (v4 v5 : Nat) (hv : v4 < 2 ^ 30) :
    ((((u8 (((v4 >>> 22) &&& 0xff))))) <<< 22) ||| ((((u8 (((v4 >>> 14) &&& 0xff))))) <<< 14) ||| ((((u8 (((v4 >>> 6) &&& 0xff))))) <<< 6) ||| ((((u8 (((((v4) &&& 0x3f) <<< 2) ||| ((v5 >>> 28) &&& 0x3)))) >>> 2) &&& 0x3f)) = v4 := by
  rw [step_top v4 30 22 rfl hv]
  rw [step_mid v4 22 14 rfl]
  rw [step_mid v4 14 6 rfl]
  rw [step_last v4 (((v5 >>> 28) &&& 0x3)) 2 6 63 rfl rfl
    (Nat.and_lt_two_pow _ (by norm_num))]

theorem upb30_c5 (v4 v5 v6 : Nat) (hv : v5 < 2 ^ 30) :
    (((((u8 (((((v4) &&& 0x3f) <<< 2) ||| ((v5 >>> 28) &&& 0x3))))) &&& 0x3)) <<< 28) ||| ((((u8 (((v5 >>> 20) &&& 0xff))))) <<< 20) ||| ((((u8 (((v5 >>> 12) &&& 0xff))))) <<< 12) ||| ((((u8 (((v5 >>> 4) &&& 0xff))))) <<< 4) ||| ((((u8 (((((v5) &&& 0xf) <<< 4) ||| ((v6 >>> 26) &&& 0xf)))) >>> 4) &&& 0xf)) = v5 := by
  rw [step_first (((v4) &&& 0x3f)) v5 30 28 2 3 rfl rfl (by norm_num) hv]
  rw [step_mid v5 28 20 rfl]
  rw [step_mid v5 20 12 rfl]
  rw [step_mid v5 12 4 rfl]
  rw [step_last v5 (((v6 >>> 26) &&& 0xf)) 4 4 15 rfl rfl
    (Nat.and_lt_two_pow _ (by norm_num))]

theorem upb30_c6 (v5 v6 v7 : Nat) (hv : v6 < 2 ^ 30) :
    (((((u8 (((((v5) &&& 0xf) <<< 4) ||| ((v6 >>> 26) &&& 0xf))))) &&& 0xf)) <<< 26) ||| ((((u8 (((v6 >>> 18) &&& 0xff))))) <<< 18) ||| ((((u8 (((v6 >>> 10) &&& 0xff))))) <<< 10) ||| ((((u8 (((v6 >>> 2) &&& 0xff))))) <<< 2) ||| ((((u8 (((((v6) &&& 0x3) <<< 6) ||| ((v7 >>> 24) &&& 0x3f)))) >>> 6) &&& 0x3)) = v6 := by
  rw [step_first (((v5) &&& 0xf)) v6 30 26 4 15 rfl rfl (by norm_num) hv]
  rw [step_mid v6 26 18 rfl]
  rw [step_mid v6 18 10 rfl]
  rw [step_mid v6 10 2 rfl]
  rw [step_last v6 (((v7 >>> 24) &&& 0x3f)) 6 2 3 rfl rfl
    (Nat.and_lt_two_pow _ (by norm_num))]

theorem upb30_c7 (v6 v7 : Nat) (hv : v7 < 2 ^ 30) :
    (((((u8 (((((v6) &&& 0x3) <<< 6) ||| ((v7 >>> 24) &&& 0x3f))))) &&& 0x3f)) <<< 24) ||| ((((u8 (((v7 >>> 16) &&& 0xff))))) <<< 16) ||| ((((u8 (((v7 >>> 8) &&& 0xff))))) <<< 8) ||| (((u8 (((v7) &&& 0xff))))) = v7 := by
  rw [step_first (((v6) &&& 0x3)) v7 30 24 6 63 rfl rfl (by norm_num) hv]
  rw [step_mid v7 24 16 rfl]
  rw [step_mid v7 16 8 rfl]
  rw [step_low v7]

theorem unpack_pack_bits_30 (v0 v1 v2 v3 v4 v5 v6 v7 : Nat)
    (h0 : v0 < 2 ^ 30) (h1 : v1 < 2 ^ 30) (h2 : v2 < 2 ^ 30) (h3 : v3 < 2 ^ 30) (h4 : v4 < 2 ^ 30) (h5 : v5 < 2 ^ 30) (h6 : v6 < 2 ^ 30) (h7 : v7 < 2 ^ 30) :
    unpack_bits_30 (pack_bits_30 v0 v1 v2 v3 v4 v5 v6 v7) =
      [v0, v1, v2, v3, v4, v5, v6, v7] := by
  have key : unpack_bits_30 (pack_bits_30 v0 v1 v2 v3 v4 v5 v6 v7) =
      [ ((((u8 (((v0 >>> 22) &&& 0xff))))) <<< 22) ||| ((((u8 (((v0 >>> 14) &&& 0xff))))) <<< 14) ||| ((((u8 (((v0 >>> 6) &&& 0xff))))) <<< 6) ||| ((((u8 (((((v0) &&& 0x3f) <<< 2) ||| ((v1 >>> 28) &&& 0x3)))) >>> 2) &&& 0x3f)),
        (((((u8 (((((v0) &&& 0x3f) <<< 2) ||| ((v1 >>> 28) &&& 0x3))))) &&& 0x3)) <<< 28) ||| ((((u8 (((v1 >>> 20) &&& 0xff))))) <<< 20) ||| ((((u8 (((v1 >>> 12) &&& 0xff))))) <<< 12) ||| ((((u8 (((v1 >>> 4) &&& 0xff))))) <<< 4) ||| ((((u8 (((((v1) &&& 0xf) <<< 4) ||| ((v2 >>> 26) &&& 0xf)))) >>> 4) &&& 0xf)),
        (((((u8 (((((v1) &&& 0xf) <<< 4) ||| ((v2 >>> 26) &&& 0xf))))) &&& 0xf)) <<< 26) ||| ((((u8 (((v2 >>> 18) &&& 0xff))))) <<< 18) ||| ((((u8 (((v2 >>> 10) &&& 0xff))))) <<< 10) ||| ((((u8 (((v2 >>> 2) &&& 0xff))))) <<< 2) ||| ((((u8 (((((v2) &&& 0x3) <<< 6) ||| ((v3 >>> 24) &&& 0x3f)))) >>> 6) &&& 0x3)),
        (((((u8 (((((v2) &&& 0x3) <<< 6) ||| ((v3 >>> 24) &&& 0x3f))))) &&& 0x3f)) <<< 24) ||| ((((u8 (((v3 >>> 16) &&& 0xff))))) <<< 16) ||| ((((u8 (((v3 >>> 8) &&& 0xff))))) <<< 8) ||| (((u8 (((v3) &&& 0xff))))),
        ((((u8 (((v4 >>> 22) &&& 0xff))))) <<< 22) ||| ((((u8 (((v4 >>> 14) &&& 0xff))))) <<< 14) ||| ((((u8 (((v4 >>> 6) &&& 0xff))))) <<< 6) ||| ((((u8 (((((v4) &&& 0x3f) <<< 2) ||| ((v5 >>> 28) &&& 0x3)))) >>> 2) &&& 0x3f)),
        (((((u8 (((((v4) &&& 0x3f) <<< 2) ||| ((v5 >>> 28) &&& 0x3))))) &&& 0x3)) <<< 28) ||| ((((u8 (((v5 >>> 20) &&& 0xff))))) <<< 20) ||| ((((u8 (((v5 >>> 12) &&& 0xff))))) <<< 12) ||| ((((u8 (((v5 >>> 4) &&& 0xff))))) <<< 4) ||| ((((u8 (((((v5) &&& 0xf) <<< 4) ||| ((v6 >>> 26) &&& 0xf)))) >>> 4) &&& 0xf)),
        (((((u8 (((((v5) &&& 0xf) <<< 4) ||| ((v6 >>> 26) &&& 0xf))))) &&& 0xf)) <<< 26) ||| ((((u8 (((v6 >>> 18) &&& 0xff))))) <<< 18) ||| ((((u8 (((v6 >>> 10) &&& 0xff))))) <<< 10) ||| ((((u8 (((v6 >>> 2) &&& 0xff))))) <<< 2) ||| ((((u8 (((((v6) &&& 0x3) <<< 6) ||| ((v7 >>> 24) &&& 0x3f)))) >>> 6) &&& 0x3)),
        (((((u8 (((((v6) &&& 0x3) <<< 6) ||| ((v7 >>> 24) &&& 0x3f))))) &&& 0x3f)) <<< 24) ||| ((((u8 (((v7 >>> 16) &&& 0xff))))) <<< 16) ||| ((((u8 (((v7 >>> 8) &&& 0xff))))) <<< 8) ||| (((u8 (((v7) &&& 0xff))))) ] := rfl
  rw [key]
  rw [upb30_c0 v0 v1 h0,
    upb30_c1 v0 v1 v2 h1,
    upb30_c2 v1 v2 v3 h2,
    upb30_c3 v2 v3 h3,
    upb30_c4 v4 v5 h4,
    upb30_c5 v4 v5 v6 h5,
    upb30_c6 v5 v6 v7 h6,
    upb30_c7 v6 v7 h7]

theorem upb31_c0 (v0 v1 : Nat) (hv : v0 < 2 ^ 31) :
    ((((u8 (((v0 >>> 23) &&& 0xff))))) <<< 23) ||| ((((u8 (((v0 >>> 15) &&& 0xff))))) <<< 15) ||| ((((u8 (((v0 >>> 7) &&& 0xff))))) <<< 7) ||| ((((u8 (((((v0) &&& 0x7f) <<< 1) ||| ((v1 >>> 30) &&& 0x1)))) >>> 1) &&& 0x7f)) = v0 := by
  rw [step_top v0 31 23 rfl hv]
  rw [step_mid v0 23 15 rfl]
  rw [step_mid v0 15 7 rfl]
  rw [step_last v0 (((v1 >>> 30) &&& 0x1)) 1 7 127 rfl rfl
    (Nat.and_lt_two_pow _ (by norm_num))]

theorem upb31_c1 (v0 v1 v2 : Nat) (hv : v1 < 2 ^ 31) :
    (((((u8 (((((v0) &&& 0x7f) <<< 1) ||| ((v1 >>> 30) &&& 0x1))))) &&& 0x1)) <<< 30) ||| ((((u8 (((v1 >>> 22) &&& 0xff))))) <<< 22) ||| ((((u8 (((v1 >>> 14) &&& 0xff))))) <<< 14) ||| ((((u8 (((v1 >>> 6) &&& 0xff))))) <<< 6) ||| ((((u8 (((((v1) &&& 0x3f) <<< 2) ||| ((v2 >>> 29) &&& 0x3)))) >>> 2) &&& 0x3f)) = v1 := by
  rw [step_first (((v0) &&& 0x7f)) v1 31 30 1 1 rfl rfl (by norm_num) hv]
  rw [step_mid v1 30 22 rfl]
  rw [step_mid v1 22 14 rfl]
  rw [step_mid v1 14 6 rfl]
  rw [step_last v1 (((v2 >>> 29) &&& 0x3)) 2 6 63 rfl rfl
    (Nat.and_lt_two_pow _ (by norm_num))]

theorem upb31_c2 (v1 v2 v3 : Nat) (hv : v2 < 2 ^ 31) :
    (((((u8 (((((v1) &&& 0x3f) <<< 2) ||| ((v2 >>> 29) &&& 0x3))))) &&& 0x3)) <<< 29) ||| ((((u8 (((v2 >>> 21) &&& 0xff))))) <<< 21) ||| ((((u8 (((v2 >>> 13) &&& 0xff))))) <<< 13) ||| ((((u8 (((v2 >>> 5) &&& 0xff))))) <<< 5) ||| ((((u8 (((((v2) &&& 0x1f) <<< 3) ||| ((v3 >>> 28) &&& 0x7)))) >>> 3) &&& 0x1f)) = v2 := by
  rw [step_first (((v1) &&& 0x3f)) v2 31 29 2 3 rfl rfl (by norm_num) hv]
  rw [step_mid v2 29 21 rfl]
  rw [step_mid v2 21 13 rfl]
  rw [step_mid v2 13 5 rfl]
  rw [step_last v2 (((v3 >>> 28) &&& 0x7)) 3 5 31 rfl rfl
    (Nat.and_lt_two_pow _ (by norm_num))]

theorem upb31_c3 (v2 v3 v4 : Nat) (hv : v3 < 2 ^ 31) :
    (((((u8 (((((v2) &&& 0x1f) <<< 3) ||| ((v3 >>> 28) &&& 0x7))))) &&& 0x7)) <<< 28) ||| ((((u8 (((v3 >>> 20) &&& 0xff))))) <<< 20) ||| ((((u8 (((v3 >>> 12) &&& 0xff))))) <<< 12) ||| ((((u8 (((v3 >>> 4) &&& 0xff))))) <<< 4) ||| ((((u8 (((((v3) &&& 0xf) <<< 4) ||| ((v4 >>> 27) &&& 0xf)))) >>> 4) &&& 0xf)) = v3 := by
  rw [step_first (((v2) &&& 0x1f)) v3 31 28 3 7 rfl rfl (by norm_num) hv]
  rw [step_mid v3 28 20 rfl]
  rw [step_mid v3 20 12 rfl]
  rw [step_mid v3 12 4 rfl]
  rw [step_last v3 (((v4 >>> 27) &&& 0xf)) 4 4 15 rfl rfl
    (Nat.and_lt_two_pow _ (by norm_num))]

theorem upb31_c4 (v3 v4 v5 : Nat) (hv : v4 < 2 ^ 31) :
    (((((u8 (((((v3) &&& 0xf) <<< 4) ||| ((v4 >>> 27) &&& 0xf))))) &&& 0xf)) <<< 27) ||| ((((u8 (((v4 >>> 19) &&& 0xff))))) <<< 19) ||| ((((u8 (((v4 >>> 11) &&& 0xff))))) <<< 11) ||| ((((u8 (((v4 >>> 3) &&& 0xff))))) <<< 3) ||| ((((u8 (((((v4) &&& 0x7) <<< 5) ||| ((v5 >>> 26) &&& 0x1f)))) >>> 5) &&& 0x7)) = v4 := by
  rw [step_first (((v3) &&& 0xf)) v4 31 27 4 15 rfl rfl (by norm_num) hv]
  rw [step_mid v4 27 19 rfl]
  rw [step_mid v4 19 11 rfl]
  rw [step_mid v4 11 3 rfl]
  rw [step_last v4 (((v5 >>> 26) &&& 0x1f)) 5 3 7 rfl rfl
    (Nat.and_lt_two_pow _ (by norm_num))]

theorem upb31_c5 (v4 v5 v6 : Nat) (hv : v5 < 2 ^ 31) :
    (((((u8 (((((v4) &&& 0x7) <<< 5) ||| ((v5 >>> 26) &&& 0x1f))))) &&& 0x1f)) <<< 26) ||| ((((u8 (((v5 >>> 18) &&& 0xff))))) <<< 18) ||| ((((u8 (((v5 >>> 10) &&& 0xff))))) <<< 10) ||| ((((u8 (((v5 >>> 2) &&& 0xff))))) <<< 2) ||| ((((u8 (((((v5) &&& 0x3) <<< 6) ||| ((v6 >>> 25) &&& 0x3f)))) >>> 6) &&& 0x3)) = v5 := by
  rw [step_first (((v4) &&& 0x7)) v5 31 26 5 31 rfl rfl (by norm_num) hv]
  rw [step_mid v5 26 18 rfl]
  rw [step_mid v5 18 10 rfl]
  rw [step_mid v5 10 2 rfl]
  rw [step_last v5 (((v6 >>> 25) &&& 0x3f)) 6 2 3 rfl rfl
    (Nat.and_lt_two_pow _ (by norm_num))]

theorem upb31_c6 (v5 v6 v7 : Nat) (hv : v6 < 2 ^ 31) :
    (((((u8 (((((v5) &&& 0x3) <<< 6) ||| ((v6 >>> 25) &&& 0x3f))))) &&& 0x3f)) <<< 25) ||| ((((u8 (((v6 >>> 17) &&& 0xff))))) <<< 17) ||| ((((u8 (((v6 >>> 9) &&& 0xff))))) <<< 9) ||| ((((u8 (((v6 >>> 1) &&& 0xff))))) <<< 1) ||| ((((u8 (((((v6) &&& 0x1) <<< 7) ||| ((v7 >>> 24) &&& 0x7f)))) >>> 7) &&& 0x1)) = v6 := by
  rw [step_first (((v5) &&& 0x3)) v6 31 25 6 63 rfl rfl (by norm_num) hv]
  rw [step_mid v6 25 17 rfl]
  rw [step_mid v6 17 9 rfl]
  rw [step_mid v6 9 1 rfl]
  rw [step_last v6 (((v7 >>> 24) &&& 0x7f)) 7 1 1 rfl rfl
    (Nat.and_lt_two_pow _ (by norm_num))]

theorem upb31_c7 (v6 v7 : Nat) (hv : v7 < 2 ^ 31) :
    (((((u8 (((((v6) &&& 0x1) <<< 7) ||| ((v7 >>> 24) &&& 0x7f))))) &&& 0x7f)) <<< 24) ||| ((((u8 (((v7 >>> 16) &&& 0xff))))) <<< 16) ||| ((((u8 (((v7 >>> 8) &&& 0xff))))) <<< 8) ||| (((u8 (((v7) &&& 0xff))))) = v7 := by
  rw [step_first (((v6) &&& 0x1)) v7 31 24 7 127 rfl rfl (by norm_num) hv]
  rw [step_mid v7 24 16 rfl]
  rw [step_mid v7 16 8 rfl]
  rw [step_low v7]

theorem unpack_pack_bits_31 (v0 v1 v2 v3 v4 v5 v6 v7 : Nat)
    (h0 : v0 < 2 ^ 31) (h1 : v1 < 2 ^ 31) (h2 : v2 < 2 ^ 31) (h3 : v3 < 2 ^ 31) (h4 : v4 < 2 ^ 31) (h5 : v5 < 2 ^ 31) (h6 : v6 < 2 ^ 31) (h7 : v7 < 2 ^ 31) :
    unpack_bits_31 (pack_bits_31 v0 v1 v2 v3 v4 v5 v6 v7) =
      [v0, v1, v2, v3, v4, v5, v6, v7] := by
  have key : unpack_bits_31 (pack_bits_31 v0 v1 v2 v3 v4 v5 v6 v7) =
      [ ((((u8 (((v0 >>> 23) &&& 0xff))))) <<< 23) ||| ((((u8 (((v0 >>> 15) &&& 0xff))))) <<< 15) ||| ((((u8 (((v0 >>> 7) &&& 0xff))))) <<< 7) ||| ((((u8 (((((v0) &&& 0x7f) <<< 1) ||| ((v1 >>> 30) &&& 0x1)))) >>> 1) &&& 0x7f)),
        (((((u8 (((((v0) &&& 0x7f) <<< 1) ||| ((v1 >>> 30) &&& 0x1))))) &&& 0x1)) <<< 30) ||| ((((u8 (((v1 >>> 22) &&& 0xff))))) <<< 22) ||| ((((u8 (((v1 >>> 14) &&& 0xff))))) <<< 14) ||| ((((u8 (((v1 >>> 6) &&& 0xff))))) <<< 6) ||| ((((u8 (((((v1) &&& 0x3f) <<< 2) ||| ((v2 >>> 29) &&& 0x3)))) >>> 2) &&& 0x3f)),
        (((((u8 (((((v1) &&& 0x3f) <<< 2) ||| ((v2 >>> 29) &&& 0x3))))) &&& 0x3)) <<< 29) ||| ((((u8 (((v2 >>> 21) &&& 0xff))))) <<< 21) ||| ((((u8 (((v2 >>> 13) &&& 0xff))))) <<< 13) ||| ((((u8 (((v2 >>> 5) &&& 0xff))))) <<< 5) ||| ((((u8 (((((v2) &&& 0x1f) <<< 3) ||| ((v3 >>> 28) &&& 0x7)))) >>> 3) &&& 0x1f)),
        (((((u8 (((((v2) &&& 0x1f) <<< 3) ||| ((v3 >>> 28) &&& 0x7))))) &&& 0x7)) <<< 28) ||| ((((u8 (((v3 >>> 20) &&& 0xff))))) <<< 20) ||| ((((u8 (((v3 >>> 12) &&& 0xff))))) <<< 12) ||| ((((u8 (((v3 >>> 4) &&& 0xff))))) <<< 4) ||| ((((u8 (((((v3) &&& 0xf) <<< 4) ||| ((v4 >>> 27) &&& 0xf)))) >>> 4) &&& 0xf)),
        (((((u8 (((((v3) &&& 0xf) <<< 4) ||| ((v4 >>> 27) &&& 0xf))))) &&& 0xf)) <<< 27) ||| ((((u8 (((v4 >>> 19) &&& 0xff))))) <<< 19) ||| ((((u8 (((v4 >>> 11) &&& 0xff))))) <<< 11) ||| ((((u8 (((v4 >>> 3) &&& 0xff))))) <<< 3) ||| ((((u8 (((((v4) &&& 0x7) <<< 5) ||| ((v5 >>> 26) &&& 0x1f)))) >>> 5) &&& 0x7)),
        (((((u8 (((((v4) &&& 0x7) <<< 5) ||| ((v5 >>> 26) &&& 0x1f))))) &&& 0x1f)) <<< 26) ||| ((((u8 (((v5 >>> 18) &&& 0xff))))) <<< 18) ||| ((((u8 (((v5 >>> 10) &&& 0xff))))) <<< 10) ||| ((((u8 (((v5 >>> 2) &&& 0xff))))) <<< 2) ||| ((((u8 (((((v5) &&& 0x3) <<< 6) ||| ((v6 >>> 25) &&& 0x3f)))) >>> 6) &&& 0x3)),
        (((((u8 (((((v5) &&& 0x3) <<< 6) ||| ((v6 >>> 25) &&& 0x3f))))) &&& 0x3f)) <<< 25) ||| ((((u8 (((v6 >>> 17) &&& 0xff))))) <<< 17) ||| ((((u8 (((v6 >>> 9) &&& 0xff))))) <<< 9) ||| ((((u8 (((v6 >>> 1) &&& 0xff))))) <<< 1) ||| ((((u8 (((((v6) &&& 0x1) <<< 7) ||| ((v7 >>> 24) &&& 0x7f)))) >>> 7) &&& 0x1)),
        (((((u8 (((((v6) &&& 0x1) <<< 7) ||| ((v7 >>> 24) &&& 0x7f))))) &&& 0x7f)) <<< 24) ||| ((((u8 (((v7 >>> 16) &&& 0xff))))) <<< 16) ||| ((((u8 (((v7 >>> 8) &&& 0xff))))) <<< 8) ||| (((u8 (((v7) &&& 0xff))))) ] := rfl
  rw [key]
  rw [upb31_c0 v0 v1 h0,
    upb31_c1 v0 v1 v2 h1,
    upb31_c2 v1 v2 v3 h2,
    upb31_c3 v2 v3 v4 h3,
    upb31_c4 v3 v4 v5 h4,
    upb31_c5 v4 v5 v6 h5,
    upb31_c6 v5 v6 v7 h6,
    upb31_c7 v6 v7 h7]

theorem upb32_c0 (v0 : Nat) (hv : v0 < 2 ^ 32) :
    ((((u8 (((v0 >>> 24) &&& 0xff))))) <<< 24) ||| ((((u8 (((v0 >>> 16) &&& 0xff))))) <<< 16) ||| ((((u8 (((v0 >>> 8) &&& 0xff))))) <<< 8) ||| (((u8 (((v0) &&& 0xff))))) = v0 := by
  rw [step_top v0 32 24 rfl hv]
  rw [step_mid v0 24 16 rfl]
  rw [step_mid v0 16 8 rfl]
  rw [step_low v0]

theorem upb32_c1 (v1 : Nat) (hv : v1 < 2 ^ 32) :
    ((((u8 (((v1 >>> 24) &&& 0xff))))) <<< 24) ||| ((((u8 (((v1 >>> 16) &&& 0xff))))) <<< 16) ||| ((((u8 (((v1 >>> 8) &&& 0xff))))) <<< 8) ||| (((u8 (((v1) &&& 0xff))))) = v1 := by
  rw [step_top v1 32 24 rfl hv]
  rw [step_mid v1 24 16 rfl]
  rw [step_mid v1 16 8 rfl]
  rw [step_low v1]

theorem upb32_c2 (v2 : Nat) (hv : v2 < 2 ^ 32) :
    ((((u8 (((v2 >>> 24) &&& 0xff))))) <<< 24) ||| ((((u8 (((v2 >>> 16) &&& 0xff))))) <<< 16) ||| ((((u8 (((v2 >>> 8) &&& 0xff))))) <<< 8) ||| (((u8 (((v2) &&& 0xff))))) = v2 := by
  rw [step_top v2 32 24 rfl hv]
  rw [step_mid v2 24 16 rfl]
  rw [step_mid v2 16 8 rfl]
  rw [step_low v2]

theorem upb32_c3 (v3 : Nat) (hv : v3 < 2 ^ 32) :
    ((((u8 (((v3 >>> 24) &&& 0xff))))) <<< 24) ||| ((((u8 (((v3 >>> 16) &&& 0xff))))) <<< 16) ||| ((((u8 (((v3 >>> 8) &&& 0xff))))) <<< 8) ||| (((u8 (((v3) &&& 0xff))))) = v3 := by
  rw [step_top v3 32 24 rfl hv]
  rw [step_mid v3 24 16 rfl]
  rw [step_mid v3 16 8 rfl]
  rw [step_low v3]

theorem upb32_c4 (v4 : Nat) (hv : v4 < 2 ^ 32) :
    ((((u8 (((v4 >>> 24) &&& 0xff))))) <<< 24) ||| ((((u8 (((v4 >>> 16) &&& 0xff))))) <<< 16) ||| ((((u8 (((v4 >>> 8) &&& 0xff))))) <<< 8) ||| (((u8 (((v4) &&& 0xff))))) = v4 := by
  rw [step_top v4 32 24 rfl hv]
  rw [step_mid v4 24 16 rfl]
  rw [step_mid v4 16 8 rfl]
  rw [step_low v4]

theorem upb32_c5 (v5 : Nat) (hv : v5 < 2 ^ 32) :
    ((((u8 (((v5 >>> 24) &&& 0xff))))) <<< 24) ||| ((((u8 (((v5 >>> 16) &&& 0xff))))) <<< 16) ||| ((((u8 (((v5 >>> 8) &&& 0xff))))) <<< 8) ||| (((u8 (((v5) &&& 0xff))))) = v5 := by
  rw [step_top v5 32 24 rfl hv]
  rw [step_mid v5 24 16 rfl]
  rw [step_mid v5 16 8 rfl]
  rw [step_low v5]

theorem upb32_c6 (v6 : Nat) (hv : v6 < 2 ^ 32) :
    ((((u8 (((v6 >>> 24) &&& 0xff))))) <<< 24) ||| ((((u8 (((v6 >>> 16) &&& 0xff))))) <<< 16) ||| ((((u8 (((v6 >>> 8) &&& 0xff))))) <<< 8) ||| (((u8 (((v6) &&& 0xff))))) = v6 := by
  rw [step_top v6 32 24 rfl hv]
  rw [step_mid v6 24 16 rfl]
  rw [step_mid v6 16 8 rfl]
  rw [step_low v6]

theorem upb32_c7 (v7 : Nat) (hv : v7 < 2 ^ 32) :
    ((((u8 (((v7 >>> 24) &&& 0xff))))) <<< 24) ||| ((((u8 (((v7 >>> 16) &&& 0xff))))) <<< 16) ||| ((((u8 (((v7 >>> 8) &&& 0xff))))) <<< 8) ||| (((u8 (((v7) &&& 0xff))))) = v7 := by
  rw [step_top v7 32 24 rfl hv]
  rw [step_mid v7 24 16 rfl]
  rw [step_mid v7 16 8 rfl]
  rw [step_low v7]

theorem unpack_pack_bits_32 (v0 v1 v2 v3 v4 v5 v6 v7 : Nat)
    (h0 : v0 < 2 ^ 32) (h1 : v1 < 2 ^ 32) (h2 : v2 < 2 ^ 32) (h3 : v3 < 2 ^ 32) (h4 : v4 < 2 ^ 32) (h5 : v5 < 2 ^ 32) (h6 : v6 < 2 ^ 32) (h7 : v7 < 2 ^ 32) :
    unpack_bits_32 (pack_bits_32 v0 v1 v2 v3 v4 v5 v6 v7) =
      [v0, v1, v2, v3, v4, v5, v6, v7] := by
  have key : unpack_bits_32 (pack_bits_32 v0 v1 v2 v3 v4 v5 v6 v7) =
      [ ((((u8 (((v0 >>> 24) &&& 0xff))))) <<< 24) ||| ((((u8 (((v0 >>> 16) &&& 0xff))))) <<< 16) ||| ((((u8 (((v0 >>> 8) &&& 0xff))))) <<< 8) ||| (((u8 (((v0) &&& 0xff))))),
        ((((u8 (((v1 >>> 24) &&& 0xff))))) <<< 24) ||| ((((u8 (((v1 >>> 16) &&& 0xff))))) <<< 16) ||| ((((u8 (((v1 >>> 8) &&& 0xff))))) <<< 8) ||| (((u8 (((v1) &&& 0xff))))),
        ((((u8 (((v2 >>> 24) &&& 0xff))))) <<< 24) ||| ((((u8 (((v2 >>> 16) &&& 0xff))))) <<< 16) ||| ((((u8 (((v2 >>> 8) &&& 0xff))))) <<< 8) ||| (((u8 (((v2) &&& 0xff))))),
        ((((u8 (((v3 >>> 24) &&& 0xff))))) <<< 24) ||| ((((u8 (((v3 >>> 16) &&& 0xff))))) <<< 16) ||| ((((u8 (((v3 >>> 8) &&& 0xff))))) <<< 8) ||| (((u8 (((v3) &&& 0xff))))),
        ((((u8 (((v4 >>> 24) &&& 0xff))))) <<< 24) ||| ((((u8 (((v4 >>> 16) &&& 0xff))))) <<< 16) ||| ((((u8 (((v4 >>> 8) &&& 0xff))))) <<< 8) ||| (((u8 (((v4) &&& 0xff))))),
        ((((u8 (((v5 >>> 24) &&& 0xff))))) <<< 24) ||| ((((u8 (((v5 >>> 16) &&& 0xff))))) <<< 16) ||| ((((u8 (((v5 >>> 8) &&& 0xff))))) <<< 8) ||| (((u8 (((v5) &&& 0xff))))),
        ((((u8 (((v6 >>> 24) &&& 0xff))))) <<< 24) ||| ((((u8 (((v6 >>> 16) &&& 0xff))))) <<< 16) ||| ((((u8 (((v6 >>> 8) &&& 0xff))))) <<< 8) ||| (((u8 (((v6) &&& 0xff))))),
        ((((u8 (((v7 >>> 24) &&& 0xff))))) <<< 24) ||| ((((u8 (((v7 >>> 16) &&& 0xff))))) <<< 16) ||| ((((u8 (((v7 >>> 8) &&& 0xff))))) <<< 8) ||| (((u8 (((v7) &&& 0xff))))) ] := rfl
  rw [key]
  rw [upb32_c0 v0 h0,
    upb32_c1 v1 h1,
    upb32_c2 v2 h2,
    upb32_c3 v3 h3,
    upb32_c4 v4 h4,
    upb32_c5 v5 h5,
    upb32_c6 v6 h6,
    upb32_c7 v7 h7]

theorem upb33_c0 (v0 v1 : Nat) (hv : v0 < 2 ^ 33) :
    ((((u8 (((v0 >>> 25) &&& 0xff))))) <<< 25) ||| ((((u8 (((v0 >>> 17) &&& 0xff))))) <<< 17) ||| ((((u8 (((v0 >>> 9) &&& 0xff))))) <<< 9) ||| ((((u8 (((v0 >>> 1) &&& 0xff))))) <<< 1) ||| ((((u8 (((((v0) &&& 0x1) <<< 7) ||| ((v1 >>> 26) &&& 0x7f)))) >>> 7) &&& 0x1)) = v0 := by
  rw [step_top v0 33 25 rfl hv]
  rw [step_mid v0 25 17 rfl]
  rw [step_mid v0 17 9 rfl]
  rw [step_mid v0 9 1 rfl]
  rw [step_last v0 (((v1 >>> 26) &&& 0x7f)) 7 1 1 rfl rfl
    (Nat.and_lt_two_pow _ (by norm_num))]

theorem upb33_c1 (v0 v1 v2 : Nat) (hv : v1 < 2 ^ 33) :
    (((((u8 (((((v0) &&& 0x1) <<< 7) ||| ((v1 >>> 26) &&& 0x7f))))) &&& 0x7f)) <<< 26) ||| ((((u8 (((v1 >>> 18) &&& 0xff))))) <<< 18) ||| ((((u8 (((v1 >>> 10) &&& 0xff))))) <<< 10) ||| ((((u8 (((v1 >>> 2) &&& 0xff))))) <<< 2) ||| ((((u8 (((((v1) &&& 0x3) <<< 6) ||| ((v2 >>> 27) &&& 0x3f)))) >>> 6) &&& 0x3)) = v1 := by
  rw [step_first (((v0) &&& 0x1)) v1 33 26 7 127 rfl rfl (by norm_num) hv]
  rw [step_mid v1 26 18 rfl]
  rw [step_mid v1 18 10 rfl]
  rw [step_mid v1 10 2 rfl]
  rw [step_last v1 (((v2 >>> 27) &&& 0x3f)) 6 2 3 rfl rfl
    (Nat.and_lt_two_pow _ (by norm_num))]

theorem upb33_c2 (v1 v2 v3 : Nat) (hv : v2 < 2 ^ 33) :
    (((((u8 (((((v1) &&& 0x3) <<< 6) ||| ((v2 >>> 27) &&& 0x3f))))) &&& 0x3f)) <<< 27) ||| ((((u8 (((v2 >>> 19) &&& 0xff))))) <<< 19) ||| ((((u8 (((v2 >>> 11) &&& 0xff))))) <<< 11) ||| ((((u8 (((v2 >>> 3) &&& 0xff))))) <<< 3) ||| ((((u8 (((((v2) &&& 0x7) <<< 5) ||| ((v3 >>> 28) &&& 0x1f)))) >>> 5) &&& 0x7)) = v2 := by
  rw [step_first (((v1) &&& 0x3)) v2 33 27 6 63 rfl rfl (by norm_num) hv]
  rw [step_mid v2 27 19 rfl]
  rw [step_mid v2 19 11 rfl]
  rw [step_mid v2 11 3 rfl]
  rw [step_last v2 (((v3 >>> 28) &&& 0x1f)) 5 3 7 rfl rfl
    (Nat.and_lt_two_pow _ (by norm_num))]

theorem upb33_c3 (v2 v3 v4 : Nat) (hv : v3 < 2 ^ 33) :
    (((((u8 (((((v2) &&& 0x7) <<< 5) ||| ((v3 >>> 28) &&& 0x1f))))) &&& 0x1f)) <<< 28) ||| ((((u8 (((v3 >>> 20) &&& 0xff))))) <<< 20) ||| ((((u8 (((v3 >>> 12) &&& 0xff))))) <<< 12) ||| ((((u8 (((v3 >>> 4) &&& 0xff))))) <<< 4) ||| ((((u8 (((((v3) &&& 0xf) <<< 4) ||| ((v4 >>> 29) &&& 0xf)))) >>> 4) &&& 0xf)) = v3 := by
  rw [step_first (((v2) &&& 0x7)) v3 33 28 5 31 rfl rfl (by norm_num) hv]
  rw [step_mid v3 28 20 rfl]
  rw [step_mid v3 20 12 rfl]
  rw [step_mid v3 12 4 rfl]
  rw [step_last v3 (((v4 >>> 29) &&& 0xf)) 4 4 15 rfl rfl
    (Nat.and_lt_two_pow _ (by norm_num))]

theorem upb33_c4 (v3 v4 v5 : Nat) (hv : v4 < 2 ^ 33) :
    (((((u8 (((((v3) &&& 0xf) <<< 4) ||| ((v4 >>> 29) &&& 0xf))))) &&& 0xf)) <<< 29) ||| ((((u8 (((v4 >>> 21) &&& 0xff))))) <<< 21) ||| ((((u8 (((v4 >>> 13) &&& 0xff))))) <<< 13) ||| ((((u8 (((v4 >>> 5) &&& 0xff))))) <<< 5) ||| ((((u8 (((((v4) &&& 0x1f) <<< 3) ||| ((v5 >>> 30) &&& 0x7)))) >>> 3) &&& 0x1f)) = v4 := by
  rw [step_first (((v3) &&& 0xf)) v4 33 29 4 15 rfl rfl (by norm_num) hv]
  rw [step_mid v4 29 21 rfl]
  rw [step_mid v4 21 13 rfl]
  rw [step_mid v4 13 5 rfl]
  rw [step_last v4 (((v5 >>> 30) &&& 0x7)) 3 5 31 rfl rfl
    (Nat.and_lt_two_pow _ (by norm_num))]

theorem upb33_c5 (v4 v5 v6 : Nat) (hv : v5 < 2 ^ 33) :
    (((((u8 (((((v4) &&& 0x1f) <<< 3) ||| ((v5 >>> 30) &&& 0x7))))) &&& 0x7)) <<< 30) ||| ((((u8 (((v5 >>> 22) &&& 0xff))))) <<< 22) ||| ((((u8 (((v5 >>> 14) &&& 0xff))))) <<< 14) ||| ((((u8 (((v5 >>> 6) &&& 0xff))))) <<< 6) ||| ((((u8 (((((v5) &&& 0x3f) <<< 2) ||| ((v6 >>> 31) &&& 0x3)))) >>> 2) &&& 0x3f)) = v5 := by
  rw [step_first (((v4) &&& 0x1f)) v5 33 30 3 7 rfl rfl (by norm_num) hv]
  rw [step_mid v5 30 22 rfl]
  rw [step_mid v5 22 14 rfl]
  rw [step_mid v5 14 6 rfl]
  rw [step_last v5 (((v6 >>> 31) &&& 0x3)) 2 6 63 rfl rfl
    (Nat.and_lt_two_pow _ (by norm_num))]

theorem upb33_c6 (v5 v6 v7 : Nat) (hv : v6 < 2 ^ 33) :
    (((((u8 (((((v5) &&& 0x3f) <<< 2) ||| ((v6 >>> 31) &&& 0x3))))) &&& 0x3)) <<< 31) ||| ((((u8 (((v6 >>> 23) &&& 0xff))))) <<< 23) ||| ((((u8 (((v6 >>> 15) &&& 0xff))))) <<< 15) ||| ((((u8 (((v6 >>> 7) &&& 0xff))))) <<< 7) ||| ((((u8 (((((v6) &&& 0x7f) <<< 1) ||| ((v7 >>> 32) &&& 0x1)))) >>> 1) &&& 0x7f)) = v6 := by
  rw [step_first (((v5) &&& 0x3f)) v6 33 31 2 3 rfl rfl (by norm_num) hv]
  rw [step_mid v6 31 23 rfl]
  rw [step_mid v6 23 15 rfl]
  rw [step_mid v6 15 7 rfl]
  rw [step_last v6 (((v7 >>> 32) &&& 0x1)) 1 7 127 rfl rfl
    (Nat.and_lt_two_pow _ (by norm_num))]

theorem upb33_c7 (v6 v7 : Nat) (hv : v7 < 2 ^ 33) :
    (((((u8 (((((v6) &&& 0x7f) <<< 1) ||| ((v7 >>> 32) &&& 0x1))))) &&& 0x1)) <<< 32) ||| ((((u8 (((v7 >>> 24) &&& 0xff))))) <<< 24) ||| ((((u8 (((v7 >>> 16) &&& 0xff))))) <<< 16) ||| ((((u8 (((v7 >>> 8) &&& 0xff))))) <<< 8) ||| (((u8 (((v7) &&& 0xff))))) = v7 := by
  rw [step_first (((v6) &&& 0x7f)) v7 33 32 1 1 rfl rfl (by norm_num) hv]
  rw [step_mid v7 32 24 rfl]
  rw [step_mid v7 24 16 rfl]
  rw [step_mid v7 16 8 rfl]
  rw [step_low v7]

theorem unpack_pack_bits_33 (v0 v1 v2 v3 v4 v5 v6 v7 : Nat)
    (h0 : v0 < 2 ^ 33) (h1 : v1 < 2 ^ 33) (h2 : v2 < 2 ^ 33) (h3 : v3 < 2 ^ 33) (h4 : v4 < 2 ^ 33) (h5 : v5 < 2 ^ 33) (h6 : v6 < 2 ^ 33) (h7 : v7 < 2 ^ 33) :
    unpack_bits_33 (pack_bits_33 v0 v1 v2 v3 v4 v5 v6 v7) =
      [v0, v1, v2, v3, v4, v5, v6, v7] := by
  have key : unpack_bits_33 (pack_bits_33 v0 v1 v2 v3 v4 v5 v6 v7) =
      [ ((((u8 (((v0 >>> 25) &&& 0xff))))) <<< 25) ||| ((((u8 (((v0 >>> 17) &&& 0xff))))) <<< 17) ||| ((((u8 (((v0 >>> 9) &&& 0xff))))) <<< 9) ||| ((((u8 (((v0 >>> 1) &&& 0xff))))) <<< 1) ||| ((((u8 (((((v0) &&& 0x1) <<< 7) ||| ((v1 >>> 26) &&& 0x7f)))) >>> 7) &&& 0x1)),
        (((((u8 (((((v0) &&& 0x1) <<< 7) ||| ((v1 >>> 26) &&& 0x7f))))) &&& 0x7f)) <<< 26) ||| ((((u8 (((v1 >>> 18) &&& 0xff))))) <<< 18) ||| ((((u8 (((v1 >>> 10) &&& 0xff))))) <<< 10) ||| ((((u8 (((v1 >>> 2) &&& 0xff))))) <<< 2) ||| ((((u8 (((((v1) &&& 0x3) <<< 6) ||| ((v2 >>> 27) &&& 0x3f)))) >>> 6) &&& 0x3)),
        (((((u8 (((((v1) &&& 0x3) <<< 6) ||| ((v2 >>> 27) &&& 0x3f))))) &&& 0x3f)) <<< 27) ||| ((((u8 (((v2 >>> 19) &&& 0xff))))) <<< 19) ||| ((((u8 (((v2 >>> 11) &&& 0xff))))) <<< 11) ||| ((((u8 (((v2 >>> 3) &&& 0xff))))) <<< 3) ||| ((((u8 (((((v2) &&& 0x7) <<< 5) ||| ((v3 >>> 28) &&& 0x1f)))) >>> 5) &&& 0x7)),
        (((((u8 (((((v2) &&& 0x7) <<< 5) ||| ((v3 >>> 28) &&& 0x1f))))) &&& 0x1f)) <<< 28) ||| ((((u8 (((v3 >>> 20) &&& 0xff))))) <<< 20) ||| ((((u8 (((v3 >>> 12) &&& 0xff))))) <<< 12) ||| ((((u8 (((v3 >>> 4) &&& 0xff))))) <<< 4) ||| ((((u8 (((((v3) &&& 0xf) <<< 4) ||| ((v4 >>> 29) &&& 0xf)))) >>> 4) &&& 0xf)),
        (((((u8 (((((v3) &&& 0xf) <<< 4) ||| ((v4 >>> 29) &&& 0xf))))) &&& 0xf)) <<< 29) ||| ((((u8 (((v4 >>> 21) &&& 0xff))))) <<< 21) ||| ((((u8 (((v4 >>> 13) &&& 0xff))))) <<< 13) ||| ((((u8 (((v4 >>> 5) &&& 0xff))))) <<< 5) ||| ((((u8 (((((v4) &&& 0x1f) <<< 3) ||| ((v5 >>> 30) &&& 0x7)))) >>> 3) &&& 0x1f)),
        (((((u8 (((((v4) &&& 0x1f) <<< 3) ||| ((v5 >>> 30) &&& 0x7))))) &&& 0x7)) <<< 30) ||| ((((u8 (((v5 >>> 22) &&& 0xff))))) <<< 22) ||| ((((u8 (((v5 >>> 14) &&& 0xff))))) <<< 14) ||| ((((u8 (((v5 >>> 6) &&& 0xff))))) <<< 6) ||| ((((u8 (((((v5) &&& 0x3f) <<< 2) ||| ((v6 >>> 31) &&& 0x3)))) >>> 2) &&& 0x3f)),
        (((((u8 (((((v5) &&& 0x3f) <<< 2) ||| ((v6 >>> 31) &&& 0x3))))) &&& 0x3)) <<< 31) ||| ((((u8 (((v6 >>> 23) &&& 0xff))))) <<< 23) ||| ((((u8 (((v6 >>> 15) &&& 0xff))))) <<< 15) ||| ((((u8 (((v6 >>> 7) &&& 0xff))))) <<< 7) ||| ((((u8 (((((v6) &&& 0x7f) <<< 1) ||| ((v7 >>> 32) &&& 0x1)))) >>> 1) &&& 0x7f)),
        (((((u8 (((((v6) &&& 0x7f) <<< 1) ||| ((v7 >>> 32) &&& 0x1))))) &&& 0x1)) <<< 32) ||| ((((u8 (((v7 >>> 24) &&& 0xff))))) <<< 24) ||| ((((u8 (((v7 >>> 16) &&& 0xff))))) <<< 16) ||| ((((u8 (((v7 >>> 8) &&& 0xff))))) <<< 8) ||| (((u8 (((v7) &&& 0xff))))) ] := rfl
  rw [key]
  rw [upb33_c0 v0 v1 h0,
    upb33_c1 v0 v1 v2 h1,
    upb33_c2 v1 v2 v3 h2,
    upb33_c3 v2 v3 v4 h3,
    upb33_c4 v3 v4 v5 h4,
    upb33_c5 v4 v5 v6 h5,
    upb33_c6 v5 v6 v7 h6,
    upb33_c7 v6 v7 h7]

theorem upb34_c0 (v0 v1 : Nat) (hv : v0 < 2 ^ 34) :
    ((((u8 (((v0 >>> 26) &&& 0xff))))) <<< 26) ||| ((((u8 (((v0 >>> 18) &&& 0xff))))) <<< 18) ||| ((((u8 (((v0 >>> 10) &&& 0xff))))) <<< 10) ||| ((((u8 (((v0 >>> 2) &&& 0xff))))) <<< 2) ||| ((((u8 (((((v0) &&& 0x3) <<< 6) ||| ((v1 >>> 28) &&& 0x3f)))) >>> 6) &&& 0x3)) = v0 := by
  rw [step_top v0 34 26 rfl hv]
  rw [step_mid v0 26 18 rfl]
  rw [step_mid v0 18 10 rfl]
  rw [step_mid v0 10 2 rfl]
  rw [step_last v0 (((v1 >>> 28) &&& 0x3f)) 6 2 3 rfl rfl
    (Nat.and_lt_two_pow _ (by norm_num))]

theorem upb34_c1 (v0 v1 v2 : Nat) (hv : v1 < 2 ^ 34) :
    (((((u8 (((((v0) &&& 0x3) <<< 6) ||| ((v1 >>> 28) &&& 0x3f))))) &&& 0x3f)) <<< 28) ||| ((((u8 (((v1 >>> 20) &&& 0xff))))) <<< 20) ||| ((((u8 (((v1 >>> 12) &&& 0xff))))) <<< 12) ||| ((((u8 (((v1 >>> 4) &&& 0xff))))) <<< 4) ||| ((((u8 (((((v1) &&& 0xf) <<< 4) ||| ((v2 >>> 30) &&& 0xf)))) >>> 4) &&& 0xf)) = v1 := by
  rw [step_first (((v0) &&& 0x3)) v1 34 28 6 63 rfl rfl (by norm_num) hv]
  rw [step_mid v1 28 20 rfl]
  rw [step_mid v1 20 12 rfl]
  rw [step_mid v1 12 4 rfl]
  rw [step_last v1 (((v2 >>> 30) &&& 0xf)) 4 4 15 rfl rfl
    (Nat.and_lt_two_pow _ (by norm_num))]

theorem upb34_c2 (v1 v2 v3 : Nat) (hv : v2 < 2 ^ 34) :
    (((((u8 (((((v1) &&& 0xf) <<< 4) ||| ((v2 >>> 30) &&& 0xf))))) &&& 0xf)) <<< 30) ||| ((((u8 (((v2 >>> 22) &&& 0xff))))) <<< 22) ||| ((((u8 (((v2 >>> 14) &&& 0xff))))) <<< 14) ||| ((((u8 (((v2 >>> 6) &&& 0xff))))) <<< 6) ||| ((((u8 (((((v2) &&& 0x3f) <<< 2) ||| ((v3 >>> 32) &&& 0x3)))) >>> 2) &&& 0x3f)) = v2 := by
  rw [step_first (((v1) &&& 0xf)) v2 34 30 4 15 rfl rfl (by norm_num) hv]
  rw [step_mid v2 30 22 rfl]
  rw [step_mid v2 22 14 rfl]
  rw [step_mid v2 14 6 rfl]
  rw [step_last v2 (((v3 >>> 32) &&& 0x3)) 2 6 63 rfl rfl
    (Nat.and_lt_two_pow _ (by norm_num))]

theorem upb34_c3 (v2 v3 : Nat) (hv : v3 < 2 ^ 34) :
    (((((u8 (((((v2) &&& 0x3f) <<< 2) ||| ((v3 >>> 32) &&& 0x3))))) &&& 0x3)) <<< 32) ||| ((((u8 (((v3 >>> 24) &&& 0xff))))) <<< 24) ||| ((((u8 (((v3 >>> 16) &&& 0xff))))) <<< 16) ||| ((((u8 (((v3 >>> 8) &&& 0xff))))) <<< 8) ||| (((u8 (((v3) &&& 0xff))))) = v3 := by
  rw [step_first (((v2) &&& 0x3f)) v3 34 32 2 3 rfl rfl (by norm_num) hv]
  rw [step_mid v3 32 24 rfl]
  rw [step_mid v3 24 16 rfl]
  rw [step_mid v3 16 8 rfl]
  rw [step_low v3]

theorem upb34_c4 (v4 v5 : Nat) (hv : v4 < 2 ^ 34) :
    ((((u8 (((v4 >>> 26) &&& 0xff))))) <<< 26) ||| ((((u8 (((v4 >>> 18) &&& 0xff))))) <<< 18) ||| ((((u8 (((v4 >>> 10) &&& 0xff))))) <<< 10) ||| ((((u8 (((v4 >>> 2) &&& 0xff))))) <<< 2) ||| ((((u8 (((((v4) &&& 0x3) <<< 6) ||| ((v5 >>> 28) &&& 0x3f)))) >>> 6) &&& 0x3)) = v4 := by
  rw [step_top v4 34 26 rfl hv]
  rw [step_mid v4 26 18 rfl]
  rw [step_mid v4 18 10 rfl]
  rw [step_mid v4 10 2 rfl]
  rw [step_last v4 (((v5 >>> 28) &&& 0x3f)) 6 2 3 rfl rfl
    (Nat.and_lt_two_pow _ (by norm_num))]

theorem upb34_c5 (v4 v5 v6 : Nat) (hv : v5 < 2 ^ 34) :
    (((((u8 (((((v4) &&& 0x3) <<< 6) ||| ((v5 >>> 28) &&& 0x3f))))) &&& 0x3f)) <<< 28) ||| ((((u8 (((v5 >>> 20) &&& 0xff))))) <<< 20) ||| ((((u8 (((v5 >>> 12) &&& 0xff))))) <<< 12) ||| ((((u8 (((v5 >>> 4) &&& 0xff))))) <<< 4) ||| ((((u8 (((((v5) &&& 0xf) <<< 4) ||| ((v6 >>> 30) &&& 0xf)))) >>> 4) &&& 0xf)) = v5 := by
  rw [step_first (((v4) &&& 0x3)) v5 34 28 6 63 rfl rfl (by norm_num) hv]
  rw [step_mid v5 28 20 rfl]
  rw [step_mid v5 20 12 rfl]
  rw [step_mid v5 12 4 rfl]
  rw [step_last v5 (((v6 >>> 30) &&& 0xf)) 4 4 15 rfl rfl
    (Nat.and_lt_two_pow _ (by norm_num))]

theorem upb34_c6 (v5 v6 v7 : Nat) (hv : v6 < 2 ^ 34) :
    (((((u8 (((((v5) &&& 0xf) <<< 4) ||| ((v6 >>> 30) &&& 0xf))))) &&& 0xf)) <<< 30) ||| ((((u8 (((v6 >>> 22) &&& 0xff))))) <<< 22) ||| ((((u8 (((v6 >>> 14) &&& 0xff))))) <<< 14) ||| ((((u8 (((v6 >>> 6) &&& 0xff))))) <<< 6) ||| ((((u8 (((((v6) &&& 0x3f) <<< 2) ||| ((v7 >>> 32) &&& 0x3)))) >>> 2) &&& 0x3f)) = v6 := by
  rw [step_first (((v5) &&& 0xf)) v6 34 30 4 15 rfl rfl (by norm_num) hv]
  rw [step_mid v6 30 22 rfl]
  rw [step_mid v6 22 14 rfl]
  rw [step_mid v6 14 6 rfl]
  rw [step_last v6 (((v7 >>> 32) &&& 0x3)) 2 6 63 rfl rfl
    (Nat.and_lt_two_pow _ (by norm_num))]

theorem upb34_c7 (v6 v7 : Nat) (hv : v7 < 2 ^ 34) :
    (((((u8 (((((v6) &&& 0x3f) <<< 2) ||| ((v7 >>> 32) &&& 0x3))))) &&& 0x3)) <<< 32) ||| ((((u8 (((v7 >>> 24) &&& 0xff))))) <<< 24) ||| ((((u8 (((v7 >>> 16) &&& 0xff))))) <<< 16) ||| ((((u8 (((v7 >>> 8) &&& 0xff))))) <<< 8) ||| (((u8 (((v7) &&& 0xff))))) = v7 := by
  rw [step_first (((v6) &&& 0x3f)) v7 34 32 2 3 rfl rfl (by norm_num) hv]
  rw [step_mid v7 32 24 rfl]
  rw [step_mid v7 24 16 rfl]
  rw [step_mid v7 16 8 rfl]
  rw [step_low v7]

theorem unpack_pack_bits_34 (v0 v1 v2 v3 v4 v5 v6 v7 : Nat)
    (h0 : v0 < 2 ^ 34) (h1 : v1 < 2 ^ 34) (h2 : v2 < 2 ^ 34) (h3 : v3 < 2 ^ 34) (h4 : v4 < 2 ^ 34) (h5 : v5 < 2 ^ 34) (h6 : v6 < 2 ^ 34) (h7 : v7 < 2 ^ 34) :
    unpack_bits_34 (pack_bits_34 v0 v1 v2 v3 v4 v5 v6 v7) =
      [v0, v1, v2, v3, v4, v5, v6, v7] := by
  have key : unpack_bits_34 (pack_bits_34 v0 v1 v2 v3 v4 v5 v6 v7) =
      [ ((((u8 (((v0 >>> 26) &&& 0xff))))) <<< 26) ||| ((((u8 (((v0 >>> 18) &&& 0xff))))) <<< 18) ||| ((((u8 (((v0 >>> 10) &&& 0xff))))) <<< 10) ||| ((((u8 (((v0 >>> 2) &&& 0xff))))) <<< 2) ||| ((((u8 (((((v0) &&& 0x3) <<< 6) ||| ((v1 >>> 28) &&& 0x3f)))) >>> 6) &&& 0x3)),
        (((((u8 (((((v0) &&& 0x3) <<< 6) ||| ((v1 >>> 28) &&& 0x3f))))) &&& 0x3f)) <<< 28) ||| ((((u8 (((v1 >>> 20) &&& 0xff))))) <<< 20) ||| ((((u8 (((v1 >>> 12) &&& 0xff))))) <<< 12) ||| ((((u8 (((v1 >>> 4) &&& 0xff))))) <<< 4) ||| ((((u8 (((((v1) &&& 0xf) <<< 4) ||| ((v2 >>> 30) &&& 0xf)))) >>> 4) &&& 0xf)),
        (((((u8 (((((v1) &&& 0xf) <<< 4) ||| ((v2 >>> 30) &&& 0xf))))) &&& 0xf)) <<< 30) ||| ((((u8 (((v2 >>> 22) &&& 0xff))))) <<< 22) ||| ((((u8 (((v2 >>> 14) &&& 0xff))))) <<< 14) ||| ((((u8 (((v2 >>> 6) &&& 0xff))))) <<< 6) ||| ((((u8 (((((v2) &&& 0x3f) <<< 2) ||| ((v3 >>> 32) &&& 0x3)))) >>> 2) &&& 0x3f)),
        (((((u8 (((((v2) &&& 0x3f) <<< 2) ||| ((v3 >>> 32) &&& 0x3))))) &&& 0x3)) <<< 32) ||| ((((u8 (((v3 >>> 24) &&& 0xff))))) <<< 24) ||| ((((u8 (((v3 >>> 16) &&& 0xff))))) <<< 16) ||| ((((u8 (((v3 >>> 8) &&& 0xff))))) <<< 8) ||| (((u8 (((v3) &&& 0xff))))),
        ((((u8 (((v4 >>> 26) &&& 0xff))))) <<< 26) ||| ((((u8 (((v4 >>> 18) &&& 0xff))))) <<< 18) ||| ((((u8 (((v4 >>> 10) &&& 0xff))))) <<< 10) ||| ((((u8 (((v4 >>> 2) &&& 0xff))))) <<< 2) ||| ((((u8 (((((v4) &&& 0x3) <<< 6) ||| ((v5 >>> 28) &&& 0x3f)))) >>> 6) &&& 0x3)),
        (((((u8 (((((v4) &&& 0x3) <<< 6) ||| ((v5 >>> 28) &&& 0x3f))))) &&& 0x3f)) <<< 28) ||| ((((u8 (((v5 >>> 20) &&& 0xff))))) <<< 20) ||| ((((u8 (((v5 >>> 12) &&& 0xff))))) <<< 12) ||| ((((u8 (((v5 >>> 4) &&& 0xff))))) <<< 4) ||| ((((u8 (((((v5) &&& 0xf) <<< 4) ||| ((v6 >>> 30) &&& 0xf)))) >>> 4) &&& 0xf)),
        (((((u8 (((((v5) &&& 0xf) <<< 4) ||| ((v6 >>> 30) &&& 0xf))))) &&& 0xf)) <<< 30) ||| ((((u8 (((v6 >>> 22) &&& 0xff))))) <<< 22) ||| ((((u8 (((v6 >>> 14) &&& 0xff))))) <<< 14) ||| ((((u8 (((v6 >>> 6) &&& 0xff))))) <<< 6) ||| ((((u8 (((((v6) &&& 0x3f) <<< 2) ||| ((v7 >>> 32) &&& 0x3)))) >>> 2) &&& 0x3f)),
        (((((u8 (((((v6) &&& 0x3f) <<< 2) ||| ((v7 >>> 32) &&& 0x3))))) &&& 0x3)) <<< 32) ||| ((((u8 (((v7 >>> 24) &&& 0xff))))) <<< 24) ||| ((((u8 (((v7 >>> 16) &&& 0xff))))) <<< 16) ||| ((((u8 (((v7 >>> 8) &&& 0xff))))) <<< 8) ||| (((u8 (((v7) &&& 0xff))))) ] := rfl
  rw [key]
  rw [upb34_c0 v0 v1 h0,
    upb34_c1 v0 v1 v2 h1,
    upb34_c2 v1 v2 v3 h2,
    upb34_c3 v2 v3 h3,
    upb34_c4 v4 v5 h4,
    upb34_c5 v4 v5 v6 h5,
    upb34_c6 v5 v6 v7 h6,
    upb34_c7 v6 v7 h7]

theorem upb35_c0 (v0 v1 : Nat) (hv : v0 < 2 ^ 35) :
    ((((u8 (((v0 >>> 27) &&& 0xff))))) <<< 27) ||| ((((u8 (((v0 >>> 19) &&& 0xff))))) <<< 19) ||| ((((u8 (((v0 >>> 11) &&& 0xff))))) <<< 11) ||| ((((u8 (((v0 >>> 3) &&& 0xff))))) <<< 3) ||| ((((u8 (((((v0) &&& 0x7) <<< 5) ||| ((v1 >>> 30) &&& 0x1f)))) >>> 5) &&& 0x7)) = v0 := by
  rw [step_top v0 35 27 rfl hv]
  rw [step_mid v0 27 19 rfl]
  rw [step_mid v0 19 11 rfl]
  rw [step_mid v0 11 3 rfl]
  rw [step_last v0 (((v1 >>> 30) &&& 0x1f)) 5 3 7 rfl rfl
    (Nat.and_lt_two_pow _ (by norm_num))]

theorem upb35_c1 (v0 v1 v2 : Nat) (hv : v1 < 2 ^ 35) :
    (((((u8 (((((v0) &&& 0x7) <<< 5) ||| ((v1 >>> 30) &&& 0x1f))))) &&& 0x1f)) <<< 30) ||| ((((u8 (((v1 >>> 22) &&& 0xff))))) <<< 22) ||| ((((u8 (((v1 >>> 14) &&& 0xff))))) <<< 14) ||| ((((u8 (((v1 >>> 6) &&& 0xff))))) <<< 6) ||| ((((u8 (((((v1) &&& 0x3f) <<< 2) ||| ((v2 >>> 33) &&& 0x3)))) >>> 2) &&& 0x3f)) = v1 := by
  rw [step_first (((v0) &&& 0x7)) v1 35 30 5 31 rfl rfl (by norm_num) hv]
  rw [step_mid v1 30 22 rfl]
  rw [step_mid v1 22 14 rfl]
  rw [step_mid v1 14 6 rfl]
  rw [step_last v1 (((v2 >>> 33) &&& 0x3)) 2 6 63 rfl rfl
    (Nat.and_lt_two_pow _ (by norm_num))]

theorem upb35_c2 (v1 v2 v3 : Nat) (hv : v2 < 2 ^ 35) :
    (((((u8 (((((v1) &&& 0x3f) <<< 2) ||| ((v2 >>> 33) &&& 0x3))))) &&& 0x3)) <<< 33) ||| ((((u8 (((v2 >>> 25) &&& 0xff))))) <<< 25) ||| ((((u8 (((v2 >>> 17) &&& 0xff))))) <<< 17) ||| ((((u8 (((v2 >>> 9) &&& 0xff))))) <<< 9) ||| ((((u8 (((v2 >>> 1) &&& 0xff))))) <<< 1) ||| ((((u8 (((((v2) &&& 0x1) <<< 7) ||| ((v3 >>> 28) &&& 0x7f)))) >>> 7) &&& 0x1)) = v2 := by
  rw [step_first (((v1) &&& 0x3f)) v2 35 33 2 3 rfl rfl (by norm_num) hv]
  rw [step_mid v2 33 25 rfl]
  rw [step_mid v2 25 17 rfl]
  rw [step_mid v2 17 9 rfl]
  rw [step_mid v2 9 1 rfl]
  rw [step_last v2 (((v3 >>> 28) &&& 0x7f)) 7 1 1 rfl rfl
    (Nat.and_lt_two_pow _ (by norm_num))]

theorem upb35_c3 (v2 v3 v4 : Nat) (hv : v3 < 2 ^ 35) :
    (((((u8 (((((v2) &&& 0x1) <<< 7) ||| ((v3 >>> 28) &&& 0x7f))))) &&& 0x7f)) <<< 28) ||| ((((u8 (((v3 >>> 20) &&& 0xff))))) <<< 20) ||| ((((u8 (((v3 >>> 12) &&& 0xff))))) <<< 12) ||| ((((u8 (((v3 >>> 4) &&& 0xff))))) <<< 4) ||| ((((u8 (((((v3) &&& 0xf) <<< 4) ||| ((v4 >>> 31) &&& 0xf)))) >>> 4) &&& 0xf)) = v3 := by
  rw [step_first (((v2) &&& 0x1)) v3 35 28 7 127 rfl rfl (by norm_num) hv]
  rw [step_mid v3 28 20 rfl]
  rw [step_mid v3 20 12 rfl]
  rw [step_mid v3 12 4 rfl]
  rw [step_last v3 (((v4 >>> 31) &&& 0xf)) 4 4 15 rfl rfl
    (Nat.and_lt_two_pow _ (by norm_num))]

theorem upb35_c4 (v3 v4 v5 : Nat) (hv : v4 < 2 ^ 35) :
    (((((u8 (((((v3) &&& 0xf) <<< 4) ||| ((v4 >>> 31) &&& 0xf))))) &&& 0xf)) <<< 31) ||| ((((u8 (((v4 >>> 23) &&& 0xff))))) <<< 23) ||| ((((u8 (((v4 >>> 15) &&& 0xff))))) <<< 15) ||| ((((u8 (((v4 >>> 7) &&& 0xff))))) <<< 7) ||| ((((u8 (((((v4) &&& 0x7f) <<< 1) ||| ((v5 >>> 34) &&& 0x1)))) >>> 1) &&& 0x7f)) = v4 := by
  rw [step_first (((v3) &&& 0xf)) v4 35 31 4 15 rfl rfl (by norm_num) hv]
  rw [step_mid v4 31 23 rfl]
  rw [step_mid v4 23 15 rfl]
  rw [step_mid v4 15 7 rfl]
  rw [step_last v4 (((v5 >>> 34) &&& 0x1)) 1 7 127 rfl rfl
    (Nat.and_lt_two_pow _ (by norm_num))]

theorem upb35_c5 (v4 v5 v6 : Nat) (hv : v5 < 2 ^ 35) :
    (((((u8 (((((v4) &&& 0x7f) <<< 1) ||| ((v5 >>> 34) &&& 0x1))))) &&& 0x1)) <<< 34) ||| ((((u8 (((v5 >>> 26) &&& 0xff))))) <<< 26) ||| ((((u8 (((v5 >>> 18) &&& 0xff))))) <<< 18) ||| ((((u8 (((v5 >>> 10) &&& 0xff))))) <<< 10) ||| ((((u8 (((v5 >>> 2) &&& 0xff))))) <<< 2) ||| ((((u8 (((((v5) &&& 0x3) <<< 6) ||| ((v6 >>> 29) &&& 0x3f)))) >>> 6) &&& 0x3)) = v5 := by
  rw [step_first (((v4) &&& 0x7f)) v5 35 34 1 1 rfl rfl (by norm_num) hv]
  rw [step_mid v5 34 26 rfl]
  rw [step_mid v5 26 18 rfl]
  rw [step_mid v5 18 10 rfl]
  rw [step_mid v5 10 2 rfl]
  rw [step_last v5 (((v6 >>> 29) &&& 0x3f)) 6 2 3 rfl rfl
    (Nat.and_lt_two_pow _ (by norm_num))]

theorem upb35_c6 (v5 v6 v7 : Nat) (hv : v6 < 2 ^ 35) :
    (((((u8 (((((v5) &&& 0x3) <<< 6) ||| ((v6 >>> 29) &&& 0x3f))))) &&& 0x3f)) <<< 29) ||| ((((u8 (((v6 >>> 21) &&& 0xff))))) <<< 21) ||| ((((u8 (((v6 >>> 13) &&& 0xff))))) <<< 13) ||| ((((u8 (((v6 >>> 5) &&& 0xff))))) <<< 5) ||| ((((u8 (((((v6) &&& 0x1f) <<< 3) ||| ((v7 >>> 32) &&& 0x7)))) >>> 3) &&& 0x1f)) = v6 := by
  rw [step_first (((v5) &&& 0x3)) v6 35 29 6 63 rfl rfl (by norm_num) hv]
  rw [step_mid v6 29 21 rfl]
  rw [step_mid v6 21 13 rfl]
  rw [step_mid v6 13 5 rfl]
  rw [step_last v6 (((v7 >>> 32) &&& 0x7)) 3 5 31 rfl rfl
    (Nat.and_lt_two_pow _ (by norm_num))]

theorem upb35_c7 (v6 v7 : Nat) (hv : v7 < 2 ^ 35) :
    (((((u8 (((((v6) &&& 0x1f) <<< 3) ||| ((v7 >>> 32) &&& 0x7))))) &&& 0x7)) <<< 32) ||| ((((u8 (((v7 >>> 24) &&& 0xff))))) <<< 24) ||| ((((u8 (((v7 >>> 16) &&& 0xff))))) <<< 16) ||| ((((u8 (((v7 >>> 8) &&& 0xff))))) <<< 8) ||| (((u8 (((v7) &&& 0xff))))) = v7 := by
  rw [step_first (((v6) &&& 0x1f)) v7 35 32 3 7 rfl rfl (by norm_num) hv]
  rw [step_mid v7 32 24 rfl]
  rw [step_mid v7 24 16 rfl]
  rw [step_mid v7 16 8 rfl]
  rw [step_low v7]

theorem unpack_pack_bits_35 (v0 v1 v2 v3 v4 v5 v6 v7 : Nat)
    (h0 : v0 < 2 ^ 35) (h1 : v1 < 2 ^ 35) (h2 : v2 < 2 ^ 35) (h3 : v3 < 2 ^ 35) (h4 : v4 < 2 ^ 35) (h5 : v5 < 2 ^ 35) (h6 : v6 < 2 ^ 35) (h7 : v7 < 2 ^ 35) :
    unpack_bits_35 (pack_bits_35 v0 v1 v2 v3 v4 v5 v6 v7) =
      [v0, v1, v2, v3, v4, v5, v6, v7] := by
  have key : unpack_bits_35 (pack_bits_35 v0 v1 v2 v3 v4 v5 v6 v7) =
      [ ((((u8 (((v0 >>> 27) &&& 0xff))))) <<< 27) ||| ((((u8 (((v0 >>> 19) &&& 0xff))))) <<< 19) ||| ((((u8 (((v0 >>> 11) &&& 0xff))))) <<< 11) ||| ((((u8 (((v0 >>> 3) &&& 0xff))))) <<< 3) ||| ((((u8 (((((v0) &&& 0x7) <<< 5) ||| ((v1 >>> 30) &&& 0x1f)))) >>> 5) &&& 0x7)),
        (((((u8 (((((v0) &&& 0x7) <<< 5) ||| ((v1 >>> 30) &&& 0x1f))))) &&& 0x1f)) <<< 30) ||| ((((u8 (((v1 >>> 22) &&& 0xff))))) <<< 22) ||| ((((u8 (((v1 >>> 14) &&& 0xff))))) <<< 14) ||| ((((u8 (((v1 >>> 6) &&& 0xff))))) <<< 6) ||| ((((u8 (((((v1) &&& 0x3f) <<< 2) ||| ((v2 >>> 33) &&& 0x3)))) >>> 2) &&& 0x3f)),
        (((((u8 (((((v1) &&& 0x3f) <<< 2) ||| ((v2 >>> 33) &&& 0x3))))) &&& 0x3)) <<< 33) ||| ((((u8 (((v2 >>> 25) &&& 0xff))))) <<< 25) ||| ((((u8 (((v2 >>> 17) &&& 0xff))))) <<< 17) ||| ((((u8 (((v2 >>> 9) &&& 0xff))))) <<< 9) ||| ((((u8 (((v2 >>> 1) &&& 0xff))))) <<< 1) ||| ((((u8 (((((v2) &&& 0x1) <<< 7) ||| ((v3 >>> 28) &&& 0x7f)))) >>> 7) &&& 0x1)),
        (((((u8 (((((v2) &&& 0x1) <<< 7) ||| ((v3 >>> 28) &&& 0x7f))))) &&& 0x7f)) <<< 28) ||| ((((u8 (((v3 >>> 20) &&& 0xff))))) <<< 20) ||| ((((u8 (((v3 >>> 12) &&& 0xff))))) <<< 12) ||| ((((u8 (((v3 >>> 4) &&& 0xff))))) <<< 4) ||| ((((u8 (((((v3) &&& 0xf) <<< 4) ||| ((v4 >>> 31) &&& 0xf)))) >>> 4) &&& 0xf)),
        (((((u8 (((((v3) &&& 0xf) <<< 4) ||| ((v4 >>> 31) &&& 0xf))))) &&& 0xf)) <<< 31) ||| ((((u8 (((v4 >>> 23) &&& 0xff))))) <<< 23) ||| ((((u8 (((v4 >>> 15) &&& 0xff))))) <<< 15) ||| ((((u8 (((v4 >>> 7) &&& 0xff))))) <<< 7) ||| ((((u8 (((((v4) &&& 0x7f) <<< 1) ||| ((v5 >>> 34) &&& 0x1)))) >>> 1) &&& 0x7f)),
        (((((u8 (((((v4) &&& 0x7f) <<< 1) ||| ((v5 >>> 34) &&& 0x1))))) &&& 0x1)) <<< 34) ||| ((((u8 (((v5 >>> 26) &&& 0xff))))) <<< 26) ||| ((((u8 (((v5 >>> 18) &&& 0xff))))) <<< 18) ||| ((((u8 (((v5 >>> 10) &&& 0xff))))) <<< 10) ||| ((((u8 (((v5 >>> 2) &&& 0xff))))) <<< 2) ||| ((((u8 (((((v5) &&& 0x3) <<< 6) ||| ((v6 >>> 29) &&& 0x3f)))) >>> 6) &&& 0x3)),
        (((((u8 (((((v5) &&& 0x3) <<< 6) ||| ((v6 >>> 29) &&& 0x3f))))) &&& 0x3f)) <<< 29) ||| ((((u8 (((v6 >>> 21) &&& 0xff))))) <<< 21) ||| ((((u8 (((v6 >>> 13) &&& 0xff))))) <<< 13) ||| ((((u8 (((v6 >>> 5) &&& 0xff))))) <<< 5) ||| ((((u8 (((((v6) &&& 0x1f) <<< 3) ||| ((v7 >>> 32) &&& 0x7)))) >>> 3) &&& 0x1f)),
        (((((u8 (((((v6) &&& 0x1f) <<< 3) ||| ((v7 >>> 32) &&& 0x7))))) &&& 0x7)) <<< 32) ||| ((((u8 (((v7 >>> 24) &&& 0xff))))) <<< 24) ||| ((((u8 (((v7 >>> 16) &&& 0xff))))) <<< 16) ||| ((((u8 (((v7 >>> 8) &&& 0xff))))) <<< 8) ||| (((u8 (((v7) &&& 0xff))))) ] := rfl
  rw [key]
  rw [upb35_c0 v0 v1 h0,
    upb35_c1 v0 v1 v2 h1,
    upb35_c2 v1 v2 v3 h2,
    upb35_c3 v2 v3 v4 h3,
    upb35_c4 v3 v4 v5 h4,
    upb35_c5 v4 v5 v6 h5,
    upb35_c6 v5 v6 v7 h6,
    upb35_c7 v6 v7 h7]

theorem upb36_c0 (v0 v1 : Nat) (hv : v0 < 2 ^ 36) :
    ((((u8 (((v0 >>> 28) &&& 0xff))))) <<< 28) ||| ((((u8 (((v0 >>> 20) &&& 0xff))))) <<< 20) ||| ((((u8 (((v0 >>> 12) &&& 0xff))))) <<< 12) ||| ((((u8 (((v0 >>> 4) &&& 0xff))))) <<< 4) ||| ((((u8 (((((v0) &&& 0xf) <<< 4) ||| ((v1 >>> 32) &&& 0xf)))) >>> 4) &&& 0xf)) = v0 := by
  rw [step_top v0 36 28 rfl hv]
  rw [step_mid v0 28 20 rfl]
  rw [step_mid v0 20 12 rfl]
  rw [step_mid v0 12 4 rfl]
  rw [step_last v0 (((v1 >>> 32) &&& 0xf)) 4 4 15 rfl rfl
    (Nat.and_lt_two_pow _ (by norm_num))]

theorem upb36_c1 (v0 v1 : Nat) (hv : v1 < 2 ^ 36) :
    (((((u8 (((((v0) &&& 0xf) <<< 4) ||| ((v1 >>> 32) &&& 0xf))))) &&& 0xf)) <<< 32) ||| ((((u8 (((v1 >>> 24) &&& 0xff))))) <<< 24) ||| ((((u8 (((v1 >>> 16) &&& 0xff))))) <<< 16) ||| ((((u8 (((v1 >>> 8) &&& 0xff))))) <<< 8) ||| (((u8 (((v1) &&& 0xff))))) = v1 := by
  rw [step_first (((v0) &&& 0xf)) v1 36 32 4 15 rfl rfl (by norm_num) hv]
  rw [step_mid v1 32 24 rfl]
  rw [step_mid v1 24 16 rfl]
  rw [step_mid v1 16 8 rfl]
  rw [step_low v1]

theorem upb36_c2 (v2 v3 : Nat) (hv : v2 < 2 ^ 36) :
    ((((u8 (((v2 >>> 28) &&& 0xff))))) <<< 28) ||| ((((u8 (((v2 >>> 20) &&& 0xff))))) <<< 20) ||| ((((u8 (((v2 >>> 12) &&& 0xff))))) <<< 12) ||| ((((u8 (((v2 >>> 4) &&& 0xff))))) <<< 4) ||| ((((u8 (((((v2) &&& 0xf) <<< 4) ||| ((v3 >>> 32) &&& 0xf)))) >>> 4) &&& 0xf)) = v2 := by
  rw [step_top v2 36 28 rfl hv]
  rw [step_mid v2 28 20 rfl]
  rw [step_mid v2 20 12 rfl]
  rw [step_mid v2 12 4 rfl]
  rw [step_last v2 (((v3 >>> 32) &&& 0xf)) 4 4 15 rfl rfl
    (Nat.and_lt_two_pow _ (by norm_num))]

theorem upb36_c3 (v2 v3 : Nat) (hv : v3 < 2 ^ 36) :
    (((((u8 (((((v2) &&& 0xf) <<< 4) ||| ((v3 >>> 32) &&& 0xf))))) &&& 0xf)) <<< 32) ||| ((((u8 (((v3 >>> 24) &&& 0xff))))) <<< 24) ||| ((((u8 (((v3 >>> 16) &&& 0xff))))) <<< 16) ||| ((((u8 (((v3 >>> 8) &&& 0xff))))) <<< 8) ||| (((u8 (((v3) &&& 0xff))))) = v3 := by
  rw [step_first (((v2) &&& 0xf)) v3 36 32 4 15 rfl rfl (by norm_num) hv]
  rw [step_mid v3 32 24 rfl]
  rw [step_mid v3 24 16 rfl]
  rw [step_mid v3 16 8 rfl]
  rw [step_low v3]

theorem upb36_c4 (v4 v5 : Nat) (hv : v4 < 2 ^ 36) :
    ((((u8 (((v4 >>> 28) &&& 0xff))))) <<< 28) ||| ((((u8 (((v4 >>> 20) &&& 0xff))))) <<< 20) ||| ((((u8 (((v4 >>> 12) &&& 0xff))))) <<< 12) ||| ((((u8 (((v4 >>> 4) &&& 0xff))))) <<< 4) ||| ((((u8 (((((v4) &&& 0xf) <<< 4) ||| ((v5 >>> 32) &&& 0xf)))) >>> 4) &&& 0xf)) = v4 := by
  rw [step_top v4 36 28 rfl hv]
  rw [step_mid v4 28 20 rfl]
  rw [step_mid v4 20 12 rfl]
  rw [step_mid v4 12 4 rfl]
  rw [step_last v4 (((v5 >>> 32) &&& 0xf)) 4 4 15 rfl rfl
    (Nat.and_lt_two_pow _ (by norm_num))]

theorem upb36_c5 (v4 v5 : Nat) (hv : v5 < 2 ^ 36) :
    (((((u8 (((((v4) &&& 0xf) <<< 4) ||| ((v5 >>> 32) &&& 0xf))))) &&& 0xf)) <<< 32) ||| ((((u8 (((v5 >>> 24) &&& 0xff))))) <<< 24) ||| ((((u8 (((v5 >>> 16) &&& 0xff))))) <<< 16) ||| ((((u8 (((v5 >>> 8) &&& 0xff))))) <<< 8) ||| (((u8 (((v5) &&& 0xff))))) = v5 := by
  rw [step_first (((v4) &&& 0xf)) v5 36 32 4 15 rfl rfl (by norm_num) hv]
  rw [step_mid v5 32 24 rfl]
  rw [step_mid v5 24 16 rfl]
  rw [step_mid v5 16 8 rfl]
  rw [step_low v5]

theorem upb36_c6 (v6 v7 : Nat) (hv : v6 < 2 ^ 36) :
    ((((u8 (((v6 >>> 28) &&& 0xff))))) <<< 28) ||| ((((u8 (((v6 >>> 20) &&& 0xff))))) <<< 20) ||| ((((u8 (((v6 >>> 12) &&& 0xff))))) <<< 12) ||| ((((u8 (((v6 >>> 4) &&& 0xff))))) <<< 4) ||| ((((u8 (((((v6) &&& 0xf) <<< 4) ||| ((v7 >>> 32) &&& 0xf)))) >>> 4) &&& 0xf)) = v6 := by
  rw [step_top v6 36 28 rfl hv]
  rw [step_mid v6 28 20 rfl]
  rw [step_mid v6 20 12 rfl]
  rw [step_mid v6 12 4 rfl]
  rw [step_last v6 (((v7 >>> 32) &&& 0xf)) 4 4 15 rfl rfl
    (Nat.and_lt_two_pow _ (by norm_num))]

theorem upb36_c7 (v6 v7 : Nat) (hv : v7 < 2 ^ 36) :
    (((((u8 (((((v6) &&& 0xf) <<< 4) ||| ((v7 >>> 32) &&& 0xf))))) &&& 0xf)) <<< 32) ||| ((((u8 (((v7 >>> 24) &&& 0xff))))) <<< 24) ||| ((((u8 (((v7 >>> 16) &&& 0xff))))) <<< 16) ||| ((((u8 (((v7 >>> 8) &&& 0xff))))) <<< 8) ||| (((u8 (((v7) &&& 0xff))))) = v7 := by
  rw [step_first (((v6) &&& 0xf)) v7 36 32 4 15 rfl rfl (by norm_num) hv]
  rw [step_mid v7 32 24 rfl]
  rw [step_mid v7 24 16 rfl]
  rw [step_mid v7 16 8 rfl]
  rw [step_low v7]

theorem unpack_pack_bits_36 (v0 v1 v2 v3 v4 v5 v6 v7 : Nat)
    (h0 : v0 < 2 ^ 36) (h1 : v1 < 2 ^ 36) (h2 : v2 < 2 ^ 36) (h3 : v3 < 2 ^ 36) (h4 : v4 < 2 ^ 36) (h5 : v5 < 2 ^ 36) (h6 : v6 < 2 ^ 36) (h7 : v7 < 2 ^ 36) :
    unpack_bits_36 (pack_bits_36 v0 v1 v2 v3 v4 v5 v6 v7) =
      [v0, v1, v2, v3, v4, v5, v6, v7] := by
  have key : unpack_bits_36 (pack_bits_36 v0 v1 v2 v3 v4 v5 v6 v7) =
      [ ((((u8 (((v0 >>> 28) &&& 0xff))))) <<< 28) ||| ((((u8 (((v0 >>> 20) &&& 0xff))))) <<< 20) ||| ((((u8 (((v0 >>> 12) &&& 0xff))))) <<< 12) ||| ((((u8 (((v0 >>> 4) &&& 0xff))))) <<< 4) ||| ((((u8 (((((v0) &&& 0xf) <<< 4) ||| ((v1 >>> 32) &&& 0xf)))) >>> 4) &&& 0xf)),
        (((((u8 (((((v0) &&& 0xf) <<< 4) ||| ((v1 >>> 32) &&& 0xf))))) &&& 0xf)) <<< 32) ||| ((((u8 (((v1 >>> 24) &&& 0xff))))) <<< 24) ||| ((((u8 (((v1 >>> 16) &&& 0xff))))) <<< 16) ||| ((((u8 (((v1 >>> 8) &&& 0xff))))) <<< 8) ||| (((u8 (((v1) &&& 0xff))))),
        ((((u8 (((v2 >>> 28) &&& 0xff))))) <<< 28) ||| ((((u8 (((v2 >>> 20) &&& 0xff))))) <<< 20) ||| ((((u8 (((v2 >>> 12) &&& 0xff))))) <<< 12) ||| ((((u8 (((v2 >>> 4) &&& 0xff))))) <<< 4) ||| ((((u8 (((((v2) &&& 0xf) <<< 4) ||| ((v3 >>> 32) &&& 0xf)))) >>> 4) &&& 0xf)),
        (((((u8 (((((v2) &&& 0xf) <<< 4) ||| ((v3 >>> 32) &&& 0xf))))) &&& 0xf)) <<< 32) ||| ((((u8 (((v3 >>> 24) &&& 0xff))))) <<< 24) ||| ((((u8 (((v3 >>> 16) &&& 0xff))))) <<< 16) ||| ((((u8 (((v3 >>> 8) &&& 0xff))))) <<< 8) ||| (((u8 (((v3) &&& 0xff))))),
        ((((u8 (((v4 >>> 28) &&& 0xff))))) <<< 28) ||| ((((u8 (((v4 >>> 20) &&& 0xff))))) <<< 20) ||| ((((u8 (((v4 >>> 12) &&& 0xff))))) <<< 12) ||| ((((u8 (((v4 >>> 4) &&& 0xff))))) <<< 4) ||| ((((u8 (((((v4) &&& 0xf) <<< 4) ||| ((v5 >>> 32) &&& 0xf)))) >>> 4) &&& 0xf)),
        (((((u8 (((((v4) &&& 0xf) <<< 4) ||| ((v5 >>> 32) &&& 0xf))))) &&& 0xf)) <<< 32) ||| ((((u8 (((v5 >>> 24) &&& 0xff))))) <<< 24) ||| ((((u8 (((v5 >>> 16) &&& 0xff))))) <<< 16) ||| ((((u8 (((v5 >>> 8) &&& 0xff))))) <<< 8) ||| (((u8 (((v5) &&& 0xff))))),
        ((((u8 (((v6 >>> 28) &&& 0xff))))) <<< 28) ||| ((((u8 (((v6 >>> 20) &&& 0xff))))) <<< 20) ||| ((((u8 (((v6 >>> 12) &&& 0xff))))) <<< 12) ||| ((((u8 (((v6 >>> 4) &&& 0xff))))) <<< 4) ||| ((((u8 (((((v6) &&& 0xf) <<< 4) ||| ((v7 >>> 32) &&& 0xf)))) >>> 4) &&& 0xf)),
        (((((u8 (((((v6) &&& 0xf) <<< 4) ||| ((v7 >>> 32) &&& 0xf))))) &&& 0xf)) <<< 32) ||| ((((u8 (((v7 >>> 24) &&& 0xff))))) <<< 24) ||| ((((u8 (((v7 >>> 16) &&& 0xff))))) <<< 16) ||| ((((u8 (((v7 >>> 8) &&& 0xff))))) <<< 8) ||| (((u8 (((v7) &&& 0xff))))) ] := rfl
  rw [key]
  rw [upb36_c0 v0 v1 h0,
    upb36_c1 v0 v1 h1,
    upb36_c2 v2 v3 h2,
    upb36_c3 v2 v3 h3,
    upb36_c4 v4 v5 h4,
    upb36_c5 v4 v5 h5,
    upb36_c6 v6 v7 h6,
    upb36_c7 v6 v7 h7]

theorem upb37_c0 (v0 v1 : Nat) (hv : v0 < 2 ^ 37) :
    ((((u8 (((v0 >>> 29) &&& 0xff))))) <<< 29) ||| ((((u8 (((v0 >>> 21) &&& 0xff))))) <<< 21) ||| ((((u8 (((v0 >>> 13) &&& 0xff))))) <<< 13) ||| ((((u8 (((v0 >>> 5) &&& 0xff))))) <<< 5) ||| ((((u8 (((((v0) &&& 0x1f) <<< 3) ||| ((v1 >>> 34) &&& 0x7)))) >>> 3) &&& 0x1f)) = v0 := by
  rw [step_top v0 37 29 rfl hv]
  rw [step_mid v0 29 21 rfl]
  rw [step_mid v0 21 13 rfl]
  rw [step_mid v0 13 5 rfl]
  rw [step_last v0 (((v1 >>> 34) &&& 0x7)) 3 5 31 rfl rfl
    (Nat.and_lt_two_pow _ (by norm_num))]

theorem upb37_c1 (v0 v1 v2 : Nat) (hv : v1 < 2 ^ 37) :
    (((((u8 (((((v0) &&& 0x1f) <<< 3) ||| ((v1 >>> 34) &&& 0x7))))) &&& 0x7)) <<< 34) ||| ((((u8 (((v1 >>> 26) &&& 0xff))))) <<< 26) ||| ((((u8 (((v1 >>> 18) &&& 0xff))))) <<< 18) ||| ((((u8 (((v1 >>> 10) &&& 0xff))))) <<< 10) ||| ((((u8 (((v1 >>> 2) &&& 0xff))))) <<< 2) ||| ((((u8 (((((v1) &&& 0x3) <<< 6) ||| ((v2 >>> 31) &&& 0x3f)))) >>> 6) &&& 0x3)) = v1 := by
  rw [step_first (((v0) &&& 0x1f)) v1 37 34 3 7 rfl rfl (by norm_num) hv]
  rw [step_mid v1 34 26 rfl]
  rw [step_mid v1 26 18 rfl]
  rw [step_mid v1 18 10 rfl]
  rw [step_mid v1 10 2 rfl]
  rw [step_last v1 (((v2 >>> 31) &&& 0x3f)) 6 2 3 rfl rfl
    (Nat.and_lt_two_pow _ (by norm_num))]

theorem upb37_c2 (v1 v2 v3 : Nat) (hv : v2 < 2 ^ 37) :
    (((((u8 (((((v1) &&& 0x3) <<< 6) ||| ((v2 >>> 31) &&& 0x3f))))) &&& 0x3f)) <<< 31) ||| ((((u8 (((v2 >>> 23) &&& 0xff))))) <<< 23) ||| ((((u8 (((v2 >>> 15) &&& 0xff))))) <<< 15) ||| ((((u8 (((v2 >>> 7) &&& 0xff))))) <<< 7) ||| ((((u8 (((((v2) &&& 0x7f) <<< 1) ||| ((v3 >>> 36) &&& 0x1)))) >>> 1) &&& 0x7f)) = v2 := by
  rw [step_first (((v1) &&& 0x3)) v2 37 31 6 63 rfl rfl (by norm_num) hv]
  rw [step_mid v2 31 23 rfl]
  rw [step_mid v2 23 15 rfl]
  rw [step_mid v2 15 7 rfl]
  rw [step_last v2 (((v3 >>> 36) &&& 0x1)) 1 7 127 rfl rfl
    (Nat.and_lt_two_pow _ (by norm_num))]

theorem upb37_c3 (v2 v3 v4 : Nat) (hv : v3 < 2 ^ 37) :
    (((((u8 (((((v2) &&& 0x7f) <<< 1) ||| ((v3 >>> 36) &&& 0x1))))) &&& 0x1)) <<< 36) ||| ((((u8 (((v3 >>> 28) &&& 0xff))))) <<< 28) ||| ((((u8 (((v3 >>> 20) &&& 0xff))))) <<< 20) ||| ((((u8 (((v3 >>> 12) &&& 0xff))))) <<< 12) ||| ((((u8 (((v3 >>> 4) &&& 0xff))))) <<< 4) ||| ((((u8 (((((v3) &&& 0xf) <<< 4) ||| ((v4 >>> 33) &&& 0xf)))) >>> 4) &&& 0xf)) = v3 := by
  rw [step_first (((v2) &&& 0x7f)) v3 37 36 1 1 rfl rfl (by norm_num) hv]
  rw [step_mid v3 36 28 rfl]
  rw [step_mid v3 28 20 rfl]
  rw [step_mid v3 20 12 rfl]
  rw [step_mid v3 12 4 rfl]
  rw [step_last v3 (((v4 >>> 33) &&& 0xf)) 4 4 15 rfl rfl
    (Nat.and_lt_two_pow _ (by norm_num))]

theorem upb37_c4 (v3 v4 v5 : Nat) (hv : v4 < 2 ^ 37) :
    (((((u8 (((((v3) &&& 0xf) <<< 4) ||| ((v4 >>> 33) &&& 0xf))))) &&& 0xf)) <<< 33) ||| ((((u8 (((v4 >>> 25) &&& 0xff))))) <<< 25) ||| ((((u8 (((v4 >>> 17) &&& 0xff))))) <<< 17) ||| ((((u8 (((v4 >>> 9) &&& 0xff))))) <<< 9) ||| ((((u8 (((v4 >>> 1) &&& 0xff))))) <<< 1) ||| ((((u8 (((((v4) &&& 0x1) <<< 7) ||| ((v5 >>> 30) &&& 0x7f)))) >>> 7) &&& 0x1)) = v4 := by
  rw [step_first (((v3) &&& 0xf)) v4 37 33 4 15 rfl rfl (by norm_num) hv]
  rw [step_mid v4 33 25 rfl]
  rw [step_mid v4 25 17 rfl]
  rw [step_mid v4 17 9 rfl]
  rw [step_mid v4 9 1 rfl]
  rw [step_last v4 (((v5 >>> 30) &&& 0x7f)) 7 1 1 rfl rfl
    (Nat.and_lt_two_pow _ (by norm_num))]

theorem upb37_c5 (v4 v5 v6 : Nat) (hv : v5 < 2 ^ 37) :
    (((((u8 (((((v4) &&& 0x1) <<< 7) ||| ((v5 >>> 30) &&& 0x7f))))) &&& 0x7f)) <<< 30) ||| ((((u8 (((v5 >>> 22) &&& 0xff))))) <<< 22) ||| ((((u8 (((v5 >>> 14) &&& 0xff))))) <<< 14) ||| ((((u8 (((v5 >>> 6) &&& 0xff))))) <<< 6) ||| ((((u8 (((((v5) &&& 0x3f) <<< 2) ||| ((v6 >>> 35) &&& 0x3)))) >>> 2) &&& 0x3f)) = v5 := by
  rw [step_first (((v4) &&& 0x1)) v5 37 30 7 127 rfl rfl (by norm_num) hv]
  rw [step_mid v5 30 22 rfl]
  rw [step_mid v5 22 14 rfl]
  rw [step_mid v5 14 6 rfl]
  rw [step_last v5 (((v6 >>> 35) &&& 0x3)) 2 6 63 rfl rfl
    (Nat.and_lt_two_pow _ (by norm_num))]

theorem upb37_c6 (v5 v6 v7 : Nat) (hv : v6 < 2 ^ 37) :
    (((((u8 (((((v5) &&& 0x3f) <<< 2) ||| ((v6 >>> 35) &&& 0x3))))) &&& 0x3)) <<< 35) ||| ((((u8 (((v6 >>> 27) &&& 0xff))))) <<< 27) ||| ((((u8 (((v6 >>> 19) &&& 0xff))))) <<< 19) ||| ((((u8 (((v6 >>> 11) &&& 0xff))))) <<< 11) ||| ((((u8 (((v6 >>> 3) &&& 0xff))))) <<< 3) ||| ((((u8 (((((v6) &&& 0x7) <<< 5) ||| ((v7 >>> 32) &&& 0x1f)))) >>> 5) &&& 0x7)) = v6 := by
  rw [step_first (((v5) &&& 0x3f)) v6 37 35 2 3 rfl rfl (by norm_num) hv]
  rw [step_mid v6 35 27 rfl]
  rw [step_mid v6 27 19 rfl]
  rw [step_mid v6 19 11 rfl]
  rw [step_mid v6 11 3 rfl]
  rw [step_last v6 (((v7 >>> 32) &&& 0x1f)) 5 3 7 rfl rfl
    (Nat.and_lt_two_pow _ (by norm_num))]

theorem upb37_c7 (v6 v7 : Nat) (hv : v7 < 2 ^ 37) :
    (((((u8 (((((v6) &&& 0x7) <<< 5) ||| ((v7 >>> 32) &&& 0x1f))))) &&& 0x1f)) <<< 32) ||| ((((u8 (((v7 >>> 24) &&& 0xff))))) <<< 24) ||| ((((u8 (((v7 >>> 16) &&& 0xff))))) <<< 16) ||| ((((u8 (((v7 >>> 8) &&& 0xff))))) <<< 8) ||| (((u8 (((v7) &&& 0xff))))) = v7 := by
  rw [step_first (((v6) &&& 0x7)) v7 37 32 5 31 rfl rfl (by norm_num) hv]
  rw [step_mid v7 32 24 rfl]
  rw [step_mid v7 24 16 rfl]
  rw [step_mid v7 16 8 rfl]
  rw [step_low v7]

theorem unpack_pack_bits_37 (v0 v1 v2 v3 v4 v5 v6 v7 : Nat)
    (h0 : v0 < 2 ^ 37) (h1 : v1 < 2 ^ 37) (h2 : v2 < 2 ^ 37) (h3 : v3 < 2 ^ 37) (h4 : v4 < 2 ^ 37) (h5 : v5 < 2 ^ 37) (h6 : v6 < 2 ^ 37) (h7 : v7 < 2 ^ 37) :
    unpack_bits_37 (pack_bits_37 v0 v1 v2 v3 v4 v5 v6 v7) =
      [v0, v1, v2, v3, v4, v5, v6, v7] := by
  have key : unpack_bits_37 (pack_bits_37 v0 v1 v2 v3 v4 v5 v6 v7) =
      [ ((((u8 (((v0 >>> 29) &&& 0xff))))) <<< 29) ||| ((((u8 (((v0 >>> 21) &&& 0xff))))) <<< 21) ||| ((((u8 (((v0 >>> 13) &&& 0xff))))) <<< 13) ||| ((((u8 (((v0 >>> 5) &&& 0xff))))) <<< 5) ||| ((((u8 (((((v0) &&& 0x1f) <<< 3) ||| ((v1 >>> 34) &&& 0x7)))) >>> 3) &&& 0x1f)),
        (((((u8 (((((v0) &&& 0x1f) <<< 3) ||| ((v1 >>> 34) &&& 0x7))))) &&& 0x7)) <<< 34) ||| ((((u8 (((v1 >>> 26) &&& 0xff))))) <<< 26) ||| ((((u8 (((v1 >>> 18) &&& 0xff))))) <<< 18) ||| ((((u8 (((v1 >>> 10) &&& 0xff))))) <<< 10) ||| ((((u8 (((v1 >>> 2) &&& 0xff))))) <<< 2) ||| ((((u8 (((((v1) &&& 0x3) <<< 6) ||| ((v2 >>> 31) &&& 0x3f)))) >>> 6) &&& 0x3)),
        (((((u8 (((((v1) &&& 0x3) <<< 6) ||| ((v2 >>> 31) &&& 0x3f))))) &&& 0x3f)) <<< 31) ||| ((((u8 (((v2 >>> 23) &&& 0xff))))) <<< 23) ||| ((((u8 (((v2 >>> 15) &&& 0xff))))) <<< 15) ||| ((((u8 (((v2 >>> 7) &&& 0xff))))) <<< 7) ||| ((((u8 (((((v2) &&& 0x7f) <<< 1) ||| ((v3 >>> 36) &&& 0x1)))) >>> 1) &&& 0x7f)),
        (((((u8 (((((v2) &&& 0x7f) <<< 1) ||| ((v3 >>> 36) &&& 0x1))))) &&& 0x1)) <<< 36) ||| ((((u8 (((v3 >>> 28) &&& 0xff))))) <<< 28) ||| ((((u8 (((v3 >>> 20) &&& 0xff))))) <<< 20) ||| ((((u8 (((v3 >>> 12) &&& 0xff))))) <<< 12) ||| ((((u8 (((v3 >>> 4) &&& 0xff))))) <<< 4) ||| ((((u8 (((((v3) &&& 0xf) <<< 4) ||| ((v4 >>> 33) &&& 0xf)))) >>> 4) &&& 0xf)),
        (((((u8 (((((v3) &&& 0xf) <<< 4) ||| ((v4 >>> 33) &&& 0xf))))) &&& 0xf)) <<< 33) ||| ((((u8 (((v4 >>> 25) &&& 0xff))))) <<< 25) ||| ((((u8 (((v4 >>> 17) &&& 0xff))))) <<< 17) ||| ((((u8 (((v4 >>> 9) &&& 0xff))))) <<< 9) ||| ((((u8 (((v4 >>> 1) &&& 0xff))))) <<< 1) ||| ((((u8 (((((v4) &&& 0x1) <<< 7) ||| ((v5 >>> 30) &&& 0x7f)))) >>> 7) &&& 0x1)),
        (((((u8 (((((v4) &&& 0x1) <<< 7) ||| ((v5 >>> 30) &&& 0x7f))))) &&& 0x7f)) <<< 30) ||| ((((u8 (((v5 >>> 22) &&& 0xff))))) <<< 22) ||| ((((u8 (((v5 >>> 14) &&& 0xff))))) <<< 14) ||| ((((u8 (((v5 >>> 6) &&& 0xff))))) <<< 6) ||| ((((u8 (((((v5) &&& 0x3f) <<< 2) ||| ((v6 >>> 35) &&& 0x3)))) >>> 2) &&& 0x3f)),
        (((((u8 (((((v5) &&& 0x3f) <<< 2) ||| ((v6 >>> 35) &&& 0x3))))) &&& 0x3)) <<< 35) ||| ((((u8 (((v6 >>> 27) &&& 0xff))))) <<< 27) ||| ((((u8 (((v6 >>> 19) &&& 0xff))))) <<< 19) ||| ((((u8 (((v6 >>> 11) &&& 0xff))))) <<< 11) ||| ((((u8 (((v6 >>> 3) &&& 0xff))))) <<< 3) ||| ((((u8 (((((v6) &&& 0x7) <<< 5) ||| ((v7 >>> 32) &&& 0x1f)))) >>> 5) &&& 0x7)),
        (((((u8 (((((v6) &&& 0x7) <<< 5) ||| ((v7 >>> 32) &&& 0x1f))))) &&& 0x1f)) <<< 32) ||| ((((u8 (((v7 >>> 24) &&& 0xff))))) <<< 24) ||| ((((u8 (((v7 >>> 16) &&& 0xff))))) <<< 16) ||| ((((u8 (((v7 >>> 8) &&& 0xff))))) <<< 8) ||| (((u8 (((v7) &&& 0xff))))) ] := rfl
  rw [key]
  rw [upb37_c0 v0 v1 h0,
    upb37_c1 v0 v1 v2 h1,
    upb37_c2 v1 v2 v3 h2,
    upb37_c3 v2 v3 v4 h3,
    upb37_c4 v3 v4 v5 h4,
    upb37_c5 v4 v5 v6 h5,
    upb37_c6 v5 v6 v7 h6,
    upb37_c7 v6 v7 h7]

theorem upb38_c0 (v0 v1 : Nat) (hv : v0 < 2 ^ 38) :
    ((((u8 (((v0 >>> 30) &&& 0xff))))) <<< 30) ||| ((((u8 (((v0 >>> 22) &&& 0xff))))) <<< 22) ||| ((((u8 (((v0 >>> 14) &&& 0xff))))) <<< 14) ||| ((((u8 (((v0 >>> 6) &&& 0xff))))) <<< 6) ||| ((((u8 (((((v0) &&& 0x3f) <<< 2) ||| ((v1 >>> 36) &&& 0x3)))) >>> 2) &&& 0x3f)) = v0 := by
  rw [step_top v0 38 30 rfl hv]
  rw [step_mid v0 30 22 rfl]
  rw [step_mid v0 22 14 rfl]
  rw [step_mid v0 14 6 rfl]
  rw [step_last v0 (((v1 >>> 36) &&& 0x3)) 2 6 63 rfl rfl
    (Nat.and_lt_two_pow _ (by norm_num))]

theorem upb38_c1 (v0 v1 v2 : Nat) (hv : v1 < 2 ^ 38) :
    (((((u8 (((((v0) &&& 0x3f) <<< 2) ||| ((v1 >>> 36) &&& 0x3))))) &&& 0x3)) <<< 36) ||| ((((u8 (((v1 >>> 28) &&& 0xff))))) <<< 28) ||| ((((u8 (((v1 >>> 20) &&& 0xff))))) <<< 20) ||| ((((u8 (((v1 >>> 12) &&& 0xff))))) <<< 12) ||| ((((u8 (((v1 >>> 4) &&& 0xff))))) <<< 4) ||| ((((u8 (((((v1) &&& 0xf) <<< 4) ||| ((v2 >>> 34) &&& 0xf)))) >>> 4) &&& 0xf)) = v1 := by
  rw [step_first (((v0) &&& 0x3f)) v1 38 36 2 3 rfl rfl (by norm_num) hv]
  rw [step_mid v1 36 28 rfl]
  rw [step_mid v1 28 20 rfl]
  rw [step_mid v1 20 12 rfl]
  rw [step_mid v1 12 4 rfl]
  rw [step_last v1 (((v2 >>> 34) &&& 0xf)) 4 4 15 rfl rfl
    (Nat.and_lt_two_pow _ (by norm_num))]

theorem upb38_c2 (v1 v2 v3 : Nat) (hv : v2 < 2 ^ 38) :
    (((((u8 (((((v1) &&& 0xf) <<< 4) ||| ((v2 >>> 34) &&& 0xf))))) &&& 0xf)) <<< 34) ||| ((((u8 (((v2 >>> 26) &&& 0xff))))) <<< 26) ||| ((((u8 (((v2 >>> 18) &&& 0xff))))) <<< 18) ||| ((((u8 (((v2 >>> 10) &&& 0xff))))) <<< 10) ||| ((((u8 (((v2 >>> 2) &&& 0xff))))) <<< 2) ||| ((((u8 (((((v2) &&& 0x3) <<< 6) ||| ((v3 >>> 32) &&& 0x3f)))) >>> 6) &&& 0x3)) = v2 := by
  rw [step_first (((v1) &&& 0xf)) v2 38 34 4 15 rfl rfl (by norm_num) hv]
  rw [step_mid v2 34 26 rfl]
  rw [step_mid v2 26 18 rfl]
  rw [step_mid v2 18 10 rfl]
  rw [step_mid v2 10 2 rfl]
  rw [step_last v2 (((v3 >>> 32) &&& 0x3f)) 6 2 3 rfl rfl
    (Nat.and_lt_two_pow _ (by norm_num))]

theorem upb38_c3 (v2 v3 : Nat) (hv : v3 < 2 ^ 38) :
    (((((u8 (((((v2) &&& 0x3) <<< 6) ||| ((v3 >>> 32) &&& 0x3f))))) &&& 0x3f)) <<< 32) ||| ((((u8 (((v3 >>> 24) &&& 0xff))))) <<< 24) ||| ((((u8 (((v3 >>> 16) &&& 0xff))))) <<< 16) ||| ((((u8 (((v3 >>> 8) &&& 0xff))))) <<< 8) ||| (((u8 (((v3) &&& 0xff))))) = v3 := by
  rw [step_first (((v2) &&& 0x3)) v3 38 32 6 63 rfl rfl (by norm_num) hv]
  rw [step_mid v3 32 24 rfl]
  rw [step_mid v3 24 16 rfl]
  rw [step_mid v3 16 8 rfl]
  rw [step_low v3]

theorem upb38_c4 (v4 v5 : Nat) (hv : v4 < 2 ^ 38) :
    ((((u8 (((v4 >>> 30) &&& 0xff))))) <<< 30) ||| ((((u8 (((v4 >>> 22) &&& 0xff))))) <<< 22) ||| ((((u8 (((v4 >>> 14) &&& 0xff))))) <<< 14) ||| ((((u8 (((v4 >>> 6) &&& 0xff))))) <<< 6) ||| ((((u8 (((((v4) &&& 0x3f) <<< 2) ||| ((v5 >>> 36) &&& 0x3)))) >>> 2) &&& 0x3f)) = v4 := by
  rw [step_top v4 38 30 rfl hv]
  rw [step_mid v4 30 22 rfl]
  rw [step_mid v4 22 14 rfl]
  rw [step_mid v4 14 6 rfl]
  rw [step_last v4 (((v5 >>> 36) &&& 0x3)) 2 6 63 rfl rfl
    (Nat.and_lt_two_pow _ (by norm_num))]

theorem upb38_c5 (v4 v5 v6 : Nat) (hv : v5 < 2 ^ 38) :
    (((((u8 (((((v4) &&& 0x3f) <<< 2) ||| ((v5 >>> 36) &&& 0x3))))) &&& 0x3)) <<< 36) ||| ((((u8 (((v5 >>> 28) &&& 0xff))))) <<< 28) ||| ((((u8 (((v5 >>> 20) &&& 0xff))))) <<< 20) ||| ((((u8 (((v5 >>> 12) &&& 0xff))))) <<< 12) ||| ((((u8 (((v5 >>> 4) &&& 0xff))))) <<< 4) ||| ((((u8 (((((v5) &&& 0xf) <<< 4) ||| ((v6 >>> 34) &&& 0xf)))) >>> 4) &&& 0xf)) = v5 := by
  rw [step_first (((v4) &&& 0x3f)) v5 38 36 2 3 rfl rfl (by norm_num) hv]
  rw [step_mid v5 36 28 rfl]
  rw [step_mid v5 28 20 rfl]
  rw [step_mid v5 20 12 rfl]
  rw [step_mid v5 12 4 rfl]
  rw [step_last v5 (((v6 >>> 34) &&& 0xf)) 4 4 15 rfl rfl
    (Nat.and_lt_two_pow _ (by norm_num))]

theorem upb38_c6 (v5 v6 v7 : Nat) (hv : v6 < 2 ^ 38) :
    (((((u8 (((((v5) &&& 0xf) <<< 4) ||| ((v6 >>> 34) &&& 0xf))))) &&& 0xf)) <<< 34) ||| ((((u8 (((v6 >>> 26) &&& 0xff))))) <<< 26) ||| ((((u8 (((v6 >>> 18) &&& 0xff))))) <<< 18) ||| ((((u8 (((v6 >>> 10) &&& 0xff))))) <<< 10) ||| ((((u8 (((v6 >>> 2) &&& 0xff))))) <<< 2) ||| ((((u8 (((((v6) &&& 0x3) <<< 6) ||| ((v7 >>> 32) &&& 0x3f)))) >>> 6) &&& 0x3)) = v6 := by
  rw [step_first (((v5) &&& 0xf)) v6 38 34 4 15 rfl rfl (by norm_num) hv]
  rw [step_mid v6 34 26 rfl]
  rw [step_mid v6 26 18 rfl]
  rw [step_mid v6 18 10 rfl]
  rw [step_mid v6 10 2 rfl]
  rw [step_last v6 (((v7 >>> 32) &&& 0x3f)) 6 2 3 rfl rfl
    (Nat.and_lt_two_pow _ (by norm_num))]

theorem upb38_c7 (v6 v7 : Nat) (hv : v7 < 2 ^ 38) :
    (((((u8 (((((v6) &&& 0x3) <<< 6) ||| ((v7 >>> 32) &&& 0x3f))))) &&& 0x3f)) <<< 32) ||| ((((u8 (((v7 >>> 24) &&& 0xff))))) <<< 24) ||| ((((u8 (((v7 >>> 16) &&& 0xff))))) <<< 16) ||| ((((u8 (((v7 >>> 8) &&& 0xff))))) <<< 8) ||| (((u8 (((v7) &&& 0xff))))) = v7 := by
  rw [step_first (((v6) &&& 0x3)) v7 38 32 6 63 rfl rfl (by norm_num) hv]
  rw [step_mid v7 32 24 rfl]
  rw [step_mid v7 24 16 rfl]
  rw [step_mid v7 16 8 rfl]
  rw [step_low v7]

theorem unpack_pack_bits_38 (v0 v1 v2 v3 v4 v5 v6 v7 : Nat)
    (h0 : v0 < 2 ^ 38) (h1 : v1 < 2 ^ 38) (h2 : v2 < 2 ^ 38) (h3 : v3 < 2 ^ 38) (h4 : v4 < 2 ^ 38) (h5 : v5 < 2 ^ 38) (h6 : v6 < 2 ^ 38) (h7 : v7 < 2 ^ 38) :
    unpack_bits_38 (pack_bits_38 v0 v1 v2 v3 v4 v5 v6 v7) =
      [v0, v1, v2, v3, v4, v5, v6, v7] := by
  have key : unpack_bits_38 (pack_bits_38 v0 v1 v2 v3 v4 v5 v6 v7) =
      [ ((((u8 (((v0 >>> 30) &&& 0xff))))) <<< 30) ||| ((((u8 (((v0 >>> 22) &&& 0xff))))) <<< 22) ||| ((((u8 (((v0 >>> 14) &&& 0xff))))) <<< 14) ||| ((((u8 (((v0 >>> 6) &&& 0xff))))) <<< 6) ||| ((((u8 (((((v0) &&& 0x3f) <<< 2) ||| ((v1 >>> 36) &&& 0x3)))) >>> 2) &&& 0x3f)),
        (((((u8 (((((v0) &&& 0x3f) <<< 2) ||| ((v1 >>> 36) &&& 0x3))))) &&& 0x3)) <<< 36) ||| ((((u8 (((v1 >>> 28) &&& 0xff))))) <<< 28) ||| ((((u8 (((v1 >>> 20) &&& 0xff))))) <<< 20) ||| ((((u8 (((v1 >>> 12) &&& 0xff))))) <<< 12) ||| ((((u8 (((v1 >>> 4) &&& 0xff))))) <<< 4) ||| ((((u8 (((((v1) &&& 0xf) <<< 4) ||| ((v2 >>> 34) &&& 0xf)))) >>> 4) &&& 0xf)),
        (((((u8 (((((v1) &&& 0xf) <<< 4) ||| ((v2 >>> 34) &&& 0xf))))) &&& 0xf)) <<< 34) ||| ((((u8 (((v2 >>> 26) &&& 0xff))))) <<< 26) ||| ((((u8 (((v2 >>> 18) &&& 0xff))))) <<< 18) ||| ((((u8 (((v2 >>> 10) &&& 0xff))))) <<< 10) ||| ((((u8 (((v2 >>> 2) &&& 0xff))))) <<< 2) ||| ((((u8 (((((v2) &&& 0x3) <<< 6) ||| ((v3 >>> 32) &&& 0x3f)))) >>> 6) &&& 0x3)),
        (((((u8 (((((v2) &&& 0x3) <<< 6) ||| ((v3 >>> 32) &&& 0x3f))))) &&& 0x3f)) <<< 32) ||| ((((u8 (((v3 >>> 24) &&& 0xff))))) <<< 24) ||| ((((u8 (((v3 >>> 16) &&& 0xff))))) <<< 16) ||| ((((u8 (((v3 >>> 8) &&& 0xff))))) <<< 8) ||| (((u8 (((v3) &&& 0xff))))),
        ((((u8 (((v4 >>> 30) &&& 0xff))))) <<< 30) ||| ((((u8 (((v4 >>> 22) &&& 0xff))))) <<< 22) ||| ((((u8 (((v4 >>> 14) &&& 0xff))))) <<< 14) ||| ((((u8 (((v4 >>> 6) &&& 0xff))))) <<< 6) ||| ((((u8 (((((v4) &&& 0x3f) <<< 2) ||| ((v5 >>> 36) &&& 0x3)))) >>> 2) &&& 0x3f)),
        (((((u8 (((((v4) &&& 0x3f) <<< 2) ||| ((v5 >>> 36) &&& 0x3))))) &&& 0x3)) <<< 36) ||| ((((u8 (((v5 >>> 28) &&& 0xff))))) <<< 28) ||| ((((u8 (((v5 >>> 20) &&& 0xff))))) <<< 20) ||| ((((u8 (((v5 >>> 12) &&& 0xff))))) <<< 12) ||| ((((u8 (((v5 >>> 4) &&& 0xff))))) <<< 4) ||| ((((u8 (((((v5) &&& 0xf) <<< 4) ||| ((v6 >>> 34) &&& 0xf)))) >>> 4) &&& 0xf)),
        (((((u8 (((((v5) &&& 0xf) <<< 4) ||| ((v6 >>> 34) &&& 0xf))))) &&& 0xf)) <<< 34) ||| ((((u8 (((v6 >>> 26) &&& 0xff))))) <<< 26) ||| ((((u8 (((v6 >>> 18) &&& 0xff))))) <<< 18) ||| ((((u8 (((v6 >>> 10) &&& 0xff))))) <<< 10) ||| ((((u8 (((v6 >>> 2) &&& 0xff))))) <<< 2) ||| ((((u8 (((((v6) &&& 0x3) <<< 6) ||| ((v7 >>> 32) &&& 0x3f)))) >>> 6) &&& 0x3)),
        (((((u8 (((((v6) &&& 0x3) <<< 6) ||| ((v7 >>> 32) &&& 0x3f))))) &&& 0x3f)) <<< 32) ||| ((((u8 (((v7 >>> 24) &&& 0xff))))) <<< 24) ||| ((((u8 (((v7 >>> 16) &&& 0xff))))) <<< 16) ||| ((((u8 (((v7 >>> 8) &&& 0xff))))) <<< 8) ||| (((u8 (((v7) &&& 0xff))))) ] := rfl
  rw [key]
  rw [upb38_c0 v0 v1 h0,
    upb38_c1 v0 v1 v2 h1,
    upb38_c2 v1 v2 v3 h2,
    upb38_c3 v2 v3 h3,
    upb38_c4 v4 v5 h4,
    upb38_c5 v4 v5 v6 h5,
    upb38_c6 v5 v6 v7 h6,
    upb38_c7 v6 v7 h7]

theorem upb39_c0 (v0 v1 : Nat) (hv : v0 < 2 ^ 39) :
    ((((u8 (((v0 >>> 31) &&& 0xff))))) <<< 31) ||| ((((u8 (((v0 >>> 23) &&& 0xff))))) <<< 23) ||| ((((u8 (((v0 >>> 15) &&& 0xff))))) <<< 15) ||| ((((u8 (((v0 >>> 7) &&& 0xff))))) <<< 7) ||| ((((u8 (((((v0) &&& 0x7f) <<< 1) ||| ((v1 >>> 38) &&& 0x1)))) >>> 1) &&& 0x7f)) = v0 := by
  rw [step_top v0 39 31 rfl hv]
  rw [step_mid v0 31 23 rfl]
  rw [step_mid v0 23 15 rfl]
  rw [step_mid v0 15 7 rfl]
  rw [step_last v0 (((v1 >>> 38) &&& 0x1)) 1 7 127 rfl rfl
    (Nat.and_lt_two_pow _ (by norm_num))]

theorem upb39_c1 (v0 v1 v2 : Nat) (hv : v1 < 2 ^ 39) :
    (((((u8 (((((v0) &&& 0x7f) <<< 1) ||| ((v1 >>> 38) &&& 0x1))))) &&& 0x1)) <<< 38) ||| ((((u8 (((v1 >>> 30) &&& 0xff))))) <<< 30) ||| ((((u8 (((v1 >>> 22) &&& 0xff))))) <<< 22) ||| ((((u8 (((v1 >>> 14) &&& 0xff))))) <<< 14) ||| ((((u8 (((v1 >>> 6) &&& 0xff))))) <<< 6) ||| ((((u8 (((((v1) &&& 0x3f) <<< 2) ||| ((v2 >>> 37) &&& 0x3)))) >>> 2) &&& 0x3f)) = v1 := by
  rw [step_first (((v0) &&& 0x7f)) v1 39 38 1 1 rfl rfl (by norm_num) hv]
  rw [step_mid v1 38 30 rfl]
  rw [step_mid v1 30 22 rfl]
  rw [step_mid v1 22 14 rfl]
  rw [step_mid v1 14 6 rfl]
  rw [step_last v1 (((v2 >>> 37) &&& 0x3)) 2 6 63 rfl rfl
    (Nat.and_lt_two_pow _ (by norm_num))]

theorem upb39_c2 (v1 v2 v3 : Nat) (hv : v2 < 2 ^ 39) :
    (((((u8 (((((v1) &&& 0x3f) <<< 2) ||| ((v2 >>> 37) &&& 0x3))))) &&& 0x3)) <<< 37) ||| ((((u8 (((v2 >>> 29) &&& 0xff))))) <<< 29) ||| ((((u8 (((v2 >>> 21) &&& 0xff))))) <<< 21) ||| ((((u8 (((v2 >>> 13) &&& 0xff))))) <<< 13) ||| ((((u8 (((v2 >>> 5) &&& 0xff))))) <<< 5) ||| ((((u8 (((((v2) &&& 0x1f) <<< 3) ||| ((v3 >>> 36) &&& 0x7)))) >>> 3) &&& 0x1f)) = v2 := by
  rw [step_first (((v1) &&& 0x3f)) v2 39 37 2 3 rfl rfl (by norm_num) hv]
  rw [step_mid v2 37 29 rfl]
  rw [step_mid v2 29 21 rfl]
  rw [step_mid v2 21 13 rfl]
  rw [step_mid v2 13 5 rfl]
  rw [step_last v2 (((v3 >>> 36) &&& 0x7)) 3 5 31 rfl rfl
    (Nat.and_lt_two_pow _ (by norm_num))]

theorem upb39_c3 (v2 v3 v4 : Nat) (hv : v3 < 2 ^ 39) :
    (((((u8 (((((v2) &&& 0x1f) <<< 3) ||| ((v3 >>> 36) &&& 0x7))))) &&& 0x7)) <<< 36) ||| ((((u8 (((v3 >>> 28) &&& 0xff))))) <<< 28) ||| ((((u8 (((v3 >>> 20) &&& 0xff))))) <<< 20) ||| ((((u8 (((v3 >>> 12) &&& 0xff))))) <<< 12) ||| ((((u8 (((v3 >>> 4) &&& 0xff))))) <<< 4) ||| ((((u8 (((((v3) &&& 0xf) <<< 4) ||| ((v4 >>> 35) &&& 0xf)))) >>> 4) &&& 0xf)) = v3 := by
  rw [step_first (((v2) &&& 0x1f)) v3 39 36 3 7 rfl rfl (by norm_num) hv]
  rw [step_mid v3 36 28 rfl]
  rw [step_mid v3 28 20 rfl]
  rw [step_mid v3 20 12 rfl]
  rw [step_mid v3 12 4 rfl]
  rw [step_last v3 (((v4 >>> 35) &&& 0xf)) 4 4 15 rfl rfl
    (Nat.and_lt_two_pow _ (by norm_num))]

theorem upb39_c4 (v3 v4 v5 : Nat) (hv : v4 < 2 ^ 39) :
    (((((u8 (((((v3) &&& 0xf) <<< 4) ||| ((v4 >>> 35) &&& 0xf))))) &&& 0xf)) <<< 35) ||| ((((u8 (((v4 >>> 27) &&& 0xff))))) <<< 27) ||| ((((u8 (((v4 >>> 19) &&& 0xff))))) <<< 19) ||| ((((u8 (((v4 >>> 11) &&& 0xff))))) <<< 11) ||| ((((u8 (((v4 >>> 3) &&& 0xff))))) <<< 3) ||| ((((u8 (((((v4) &&& 0x7) <<< 5) ||| ((v5 >>> 34) &&& 0x1f)))) >>> 5) &&& 0x7)) = v4 := by
  rw [step_first (((v3) &&& 0xf)) v4 39 35 4 15 rfl rfl (by norm_num) hv]
  rw [step_mid v4 35 27 rfl]
  rw [step_mid v4 27 19 rfl]
  rw [step_mid v4 19 11 rfl]
  rw [step_mid v4 11 3 rfl]
  rw [step_last v4 (((v5 >>> 34) &&& 0x1f)) 5 3 7 rfl rfl
    (Nat.and_lt_two_pow _ (by norm_num))]

theorem upb39_c5 (v4 v5 v6 : Nat) (hv : v5 < 2 ^ 39) :
    (((((u8 (((((v4) &&& 0x7) <<< 5) ||| ((v5 >>> 34) &&& 0x1f))))) &&& 0x1f)) <<< 34) ||| ((((u8 (((v5 >>> 26) &&& 0xff))))) <<< 26) ||| ((((u8 (((v5 >>> 18) &&& 0xff))))) <<< 18) ||| ((((u8 (((v5 >>> 10) &&& 0xff))))) <<< 10) ||| ((((u8 (((v5 >>> 2) &&& 0xff))))) <<< 2) ||| ((((u8 (((((v5) &&& 0x3) <<< 6) ||| ((v6 >>> 33) &&& 0x3f)))) >>> 6) &&& 0x3)) = v5 := by
  rw [step_first (((v4) &&& 0x7)) v5 39 34 5 31 rfl rfl (by norm_num) hv]
  rw [step_mid v5 34 26 rfl]
  rw [step_mid v5 26 18 rfl]
  rw [step_mid v5 18 10 rfl]
  rw [step_mid v5 10 2 rfl]
  rw [step_last v5 (((v6 >>> 33) &&& 0x3f)) 6 2 3 rfl rfl
    (Nat.and_lt_two_pow _ (by norm_num))]

theorem upb39_c6 (v5 v6 v7 : Nat) (hv : v6 < 2 ^ 39) :
    (((((u8 (((((v5) &&& 0x3) <<< 6) ||| ((v6 >>> 33) &&& 0x3f))))) &&& 0x3f)) <<< 33) ||| ((((u8 (((v6 >>> 25) &&& 0xff))))) <<< 25) ||| ((((u8 (((v6 >>> 17) &&& 0xff))))) <<< 17) ||| ((((u8 (((v6 >>> 9) &&& 0xff))))) <<< 9) ||| ((((u8 (((v6 >>> 1) &&& 0xff))))) <<< 1) ||| ((((u8 (((((v6) &&& 0x1) <<< 7) ||| ((v7 >>> 32) &&& 0x7f)))) >>> 7) &&& 0x1)) = v6 := by
  rw [step_first (((v5) &&& 0x3)) v6 39 33 6 63 rfl rfl (by norm_num) hv]
  rw [step_mid v6 33 25 rfl]
  rw [step_mid v6 25 17 rfl]
  rw [step_mid v6 17 9 rfl]
  rw [step_mid v6 9 1 rfl]
  rw [step_last v6 (((v7 >>> 32) &&& 0x7f)) 7 1 1 rfl rfl
    (Nat.and_lt_two_pow _ (by norm_num))]

theorem upb39_c7 (v6 v7 : Nat) (hv : v7 < 2 ^ 39) :
    (((((u8 (((((v6) &&& 0x1) <<< 7) ||| ((v7 >>> 32) &&& 0x7f))))) &&& 0x7f)) <<< 32) ||| ((((u8 (((v7 >>> 24) &&& 0xff))))) <<< 24) ||| ((((u8 (((v7 >>> 16) &&& 0xff))))) <<< 16) ||| ((((u8 (((v7 >>> 8) &&& 0xff))))) <<< 8) ||| (((u8 (((v7) &&& 0xff))))) = v7 := by
  rw [step_first (((v6) &&& 0x1)) v7 39 32 7 127 rfl rfl (by norm_num) hv]
  rw [step_mid v7 32 24 rfl]
  rw [step_mid v7 24 16 rfl]
  rw [step_mid v7 16 8 rfl]
  rw [step_low v7]

theorem unpack_pack_bits_39 (v0 v1 v2 v3 v4 v5 v6 v7 : Nat)
    (h0 : v0 < 2 ^ 39) (h1 : v1 < 2 ^ 39) (h2 : v2 < 2 ^ 39) (h3 : v3 < 2 ^ 39) (h4 : v4 < 2 ^ 39) (h5 : v5 < 2 ^ 39) (h6 : v6 < 2 ^ 39) (h7 : v7 < 2 ^ 39) :
    unpack_bits_39 (pack_bits_39 v0 v1 v2 v3 v4 v5 v6 v7) =
      [v0, v1, v2, v3, v4, v5, v6, v7] := by
  have key : unpack_bits_39 (pack_bits_39 v0 v1 v2 v3 v4 v5 v6 v7) =
      [ ((((u8 (((v0 >>> 31) &&& 0xff))))) <<< 31) ||| ((((u8 (((v0 >>> 23) &&& 0xff))))) <<< 23) ||| ((((u8 (((v0 >>> 15) &&& 0xff))))) <<< 15) ||| ((((u8 (((v0 >>> 7) &&& 0xff))))) <<< 7) ||| ((((u8 (((((v0) &&& 0x7f) <<< 1) ||| ((v1 >>> 38) &&& 0x1)))) >>> 1) &&& 0x7f)),
        (((((u8 (((((v0) &&& 0x7f) <<< 1) ||| ((v1 >>> 38) &&& 0x1))))) &&& 0x1)) <<< 38) ||| ((((u8 (((v1 >>> 30) &&& 0xff))))) <<< 30) ||| ((((u8 (((v1 >>> 22) &&& 0xff))))) <<< 22) ||| ((((u8 (((v1 >>> 14) &&& 0xff))))) <<< 14) ||| ((((u8 (((v1 >>> 6) &&& 0xff))))) <<< 6) ||| ((((u8 (((((v1) &&& 0x3f) <<< 2) ||| ((v2 >>> 37) &&& 0x3)))) >>> 2) &&& 0x3f)),
        (((((u8 (((((v1) &&& 0x3f) <<< 2) ||| ((v2 >>> 37) &&& 0x3))))) &&& 0x3)) <<< 37) ||| ((((u8 (((v2 >>> 29) &&& 0xff))))) <<< 29) ||| ((((u8 (((v2 >>> 21) &&& 0xff))))) <<< 21) ||| ((((u8 (((v2 >>> 13) &&& 0xff))))) <<< 13) ||| ((((u8 (((v2 >>> 5) &&& 0xff))))) <<< 5) ||| ((((u8 (((((v2) &&& 0x1f) <<< 3) ||| ((v3 >>> 36) &&& 0x7)))) >>> 3) &&& 0x1f)),
        (((((u8 (((((v2) &&& 0x1f) <<< 3) ||| ((v3 >>> 36) &&& 0x7))))) &&& 0x7)) <<< 36) ||| ((((u8 (((v3 >>> 28) &&& 0xff))))) <<< 28) ||| ((((u8 (((v3 >>> 20) &&& 0xff))))) <<< 20) ||| ((((u8 (((v3 >>> 12) &&& 0xff))))) <<< 12) ||| ((((u8 (((v3 >>> 4) &&& 0xff))))) <<< 4) ||| ((((u8 (((((v3) &&& 0xf) <<< 4) ||| ((v4 >>> 35) &&& 0xf)))) >>> 4) &&& 0xf)),
        (((((u8 (((((v3) &&& 0xf) <<< 4) ||| ((v4 >>> 35) &&& 0xf))))) &&& 0xf)) <<< 35) ||| ((((u8 (((v4 >>> 27) &&& 0xff))))) <<< 27) ||| ((((u8 (((v4 >>> 19) &&& 0xff))))) <<< 19) ||| ((((u8 (((v4 >>> 11) &&& 0xff))))) <<< 11) ||| ((((u8 (((v4 >>> 3) &&& 0xff))))) <<< 3) ||| ((((u8 (((((v4) &&& 0x7) <<< 5) ||| ((v5 >>> 34) &&& 0x1f)))) >>> 5) &&& 0x7)),
        (((((u8 (((((v4) &&& 0x7) <<< 5) ||| ((v5 >>> 34) &&& 0x1f))))) &&& 0x1f)) <<< 34) ||| ((((u8 (((v5 >>> 26) &&& 0xff))))) <<< 26) ||| ((((u8 (((v5 >>> 18) &&& 0xff))))) <<< 18) ||| ((((u8 (((v5 >>> 10) &&& 0xff))))) <<< 10) ||| ((((u8 (((v5 >>> 2) &&& 0xff))))) <<< 2) ||| ((((u8 (((((v5) &&& 0x3) <<< 6) ||| ((v6 >>> 33) &&& 0x3f)))) >>> 6) &&& 0x3)),
        (((((u8 (((((v5) &&& 0x3) <<< 6) ||| ((v6 >>> 33) &&& 0x3f))))) &&& 0x3f)) <<< 33) ||| ((((u8 (((v6 >>> 25) &&& 0xff))))) <<< 25) ||| ((((u8 (((v6 >>> 17) &&& 0xff))))) <<< 17) ||| ((((u8 (((v6 >>> 9) &&& 0xff))))) <<< 9) ||| ((((u8 (((v6 >>> 1) &&& 0xff))))) <<< 1) ||| ((((u8 (((((v6) &&& 0x1) <<< 7) ||| ((v7 >>> 32) &&& 0x7f)))) >>> 7) &&& 0x1)),
        (((((u8 (((((v6) &&& 0x1) <<< 7) ||| ((v7 >>> 32) &&& 0x7f))))) &&& 0x7f)) <<< 32) ||| ((((u8 (((v7 >>> 24) &&& 0xff))))) <<< 24) ||| ((((u8 (((v7 >>> 16) &&& 0xff))))) <<< 16) ||| ((((u8 (((v7 >>> 8) &&& 0xff))))) <<< 8) ||| (((u8 (((v7) &&& 0xff))))) ] := rfl
  rw [key]
  rw [upb39_c0 v0 v1 h0,
    upb39_c1 v0 v1 v2 h1,
    upb39_c2 v1 v2 v3 h2,
    upb39_c3 v2 v3 v4 h3,
    upb39_c4 v3 v4 v5 h4,
    upb39_c5 v4 v5 v6 h5,
    upb39_c6 v5 v6 v7 h6,
    upb39_c7 v6 v7 h7]

theorem upb40_c0 (v0 : Nat) (hv : v0 < 2 ^ 40) :
    ((((u8 (((v0 >>> 32) &&& 0xff))))) <<< 32) ||| ((((u8 (((v0 >>> 24) &&& 0xff))))) <<< 24) ||| ((((u8 (((v0 >>> 16) &&& 0xff))))) <<< 16) ||| ((((u8 (((v0 >>> 8) &&& 0xff))))) <<< 8) ||| (((u8 (((v0) &&& 0xff))))) = v0 := by
  rw [step_top v0 40 32 rfl hv]
  rw [step_mid v0 32 24 rfl]
  rw [step_mid v0 24 16 rfl]
  rw [step_mid v0 16 8 rfl]
  rw [step_low v0]

theorem upb40_c1 (v1 : Nat) (hv : v1 < 2 ^ 40) :
    ((((u8 (((v1 >>> 32) &&& 0xff))))) <<< 32) ||| ((((u8 (((v1 >>> 24) &&& 0xff))))) <<< 24) ||| ((((u8 (((v1 >>> 16) &&& 0xff))))) <<< 16) ||| ((((u8 (((v1 >>> 8) &&& 0xff))))) <<< 8) ||| (((u8 (((v1) &&& 0xff))))) = v1 := by
  rw [step_top v1 40 32 rfl hv]
  rw [step_mid v1 32 24 rfl]
  rw [step_mid v1 24 16 rfl]
  rw [step_mid v1 16 8 rfl]
  rw [step_low v1]

theorem upb40_c2 (v2 : Nat) (hv : v2 < 2 ^ 40) :
    ((((u8 (((v2 >>> 32) &&& 0xff))))) <<< 32) ||| ((((u8 (((v2 >>> 24) &&& 0xff))))) <<< 24) ||| ((((u8 (((v2 >>> 16) &&& 0xff))))) <<< 16) ||| ((((u8 (((v2 >>> 8) &&& 0xff))))) <<< 8) ||| (((u8 (((v2) &&& 0xff))))) = v2 := by
  rw [step_top v2 40 32 rfl hv]
  rw [step_mid v2 32 24 rfl]
  rw [step_mid v2 24 16 rfl]
  rw [step_mid v2 16 8 rfl]
  rw [step_low v2]

theorem upb40_c3 (v3 : Nat) (hv : v3 < 2 ^ 40) :
    ((((u8 (((v3 >>> 32) &&& 0xff))))) <<< 32) ||| ((((u8 (((v3 >>> 24) &&& 0xff))))) <<< 24) ||| ((((u8 (((v3 >>> 16) &&& 0xff))))) <<< 16) ||| ((((u8 (((v3 >>> 8) &&& 0xff))))) <<< 8) ||| (((u8 (((v3) &&& 0xff))))) = v3 := by
  rw [step_top v3 40 32 rfl hv]
  rw [step_mid v3 32 24 rfl]
  rw [step_mid v3 24 16 rfl]
  rw [step_mid v3 16 8 rfl]
  rw [step_low v3]

theorem upb40_c4 (v4 : Nat) (hv : v4 < 2 ^ 40) :
    ((((u8 (((v4 >>> 32) &&& 0xff))))) <<< 32) ||| ((((u8 (((v4 >>> 24) &&& 0xff))))) <<< 24) ||| ((((u8 (((v4 >>> 16) &&& 0xff))))) <<< 16) ||| ((((u8 (((v4 >>> 8) &&& 0xff))))) <<< 8) ||| (((u8 (((v4) &&& 0xff))))) = v4 := by
  rw [step_top v4 40 32 rfl hv]
  rw [step_mid v4 32 24 rfl]
  rw [step_mid v4 24 16 rfl]
  rw [step_mid v4 16 8 rfl]
  rw [step_low v4]

theorem upb40_c5 (v5 : Nat) (hv : v5 < 2 ^ 40) :
    ((((u8 (((v5 >>> 32) &&& 0xff))))) <<< 32) ||| ((((u8 (((v5 >>> 24) &&& 0xff))))) <<< 24) ||| ((((u8 (((v5 >>> 16) &&& 0xff))))) <<< 16) ||| ((((u8 (((v5 >>> 8) &&& 0xff))))) <<< 8) ||| (((u8 (((v5) &&& 0xff))))) = v5 := by
  rw [step_top v5 40 32 rfl hv]
  rw [step_mid v5 32 24 rfl]
  rw [step_mid v5 24 16 rfl]
  rw [step_mid v5 16 8 rfl]
  rw [step_low v5]

theorem upb40_c6 (v6 : Nat) (hv : v6 < 2 ^ 40) :
    ((((u8 (((v6 >>> 32) &&& 0xff))))) <<< 32) ||| ((((u8 (((v6 >>> 24) &&& 0xff))))) <<< 24) ||| ((((u8 (((v6 >>> 16) &&& 0xff))))) <<< 16) ||| ((((u8 (((v6 >>> 8) &&& 0xff))))) <<< 8) ||| (((u8 (((v6) &&& 0xff))))) = v6 := by
  rw [step_top v6 40 32 rfl hv]
  rw [step_mid v6 32 24 rfl]
  rw [step_mid v6 24 16 rfl]
  rw [step_mid v6 16 8 rfl]
  rw [step_low v6]

theorem upb40_c7 (v7 : Nat) (hv : v7 < 2 ^ 40) :
    ((((u8 (((v7 >>> 32) &&& 0xff))))) <<< 32) ||| ((((u8 (((v7 >>> 24) &&& 0xff))))) <<< 24) ||| ((((u8 (((v7 >>> 16) &&& 0xff))))) <<< 16) ||| ((((u8 (((v7 >>> 8) &&& 0xff))))) <<< 8) ||| (((u8 (((v7) &&& 0xff))))) = v7 := by
  rw [step_top v7 40 32 rfl hv]
  rw [step_mid v7 32 24 rfl]
  rw [step_mid v7 24 16 rfl]
  rw [step_mid v7 16 8 rfl]
  rw [step_low v7]

theorem unpack_pack_bits_40 (v0 v1 v2 v3 v4 v5 v6 v7 : Nat)
    (h0 : v0 < 2 ^ 40) (h1 : v1 < 2 ^ 40) (h2 : v2 < 2 ^ 40) (h3 : v3 < 2 ^ 40) (h4 : v4 < 2 ^ 40) (h5 : v5 < 2 ^ 40) (h6 : v6 < 2 ^ 40) (h7 : v7 < 2 ^ 40) :
    unpack_bits_40 (pack_bits_40 v0 v1 v2 v3 v4 v5 v6 v7) =
      [v0, v1, v2, v3, v4, v5, v6, v7] := by
  have key : unpack_bits_40 (pack_bits_40 v0 v1 v2 v3 v4 v5 v6 v7) =
      [ ((((u8 (((v0 >>> 32) &&& 0xff))))) <<< 32) ||| ((((u8 (((v0 >>> 24) &&& 0xff))))) <<< 24) ||| ((((u8 (((v0 >>> 16) &&& 0xff))))) <<< 16) ||| ((((u8 (((v0 >>> 8) &&& 0xff))))) <<< 8) ||| (((u8 (((v0) &&& 0xff))))),
        ((((u8 (((v1 >>> 32) &&& 0xff))))) <<< 32) ||| ((((u8 (((v1 >>> 24) &&& 0xff))))) <<< 24) ||| ((((u8 (((v1 >>> 16) &&& 0xff))))) <<< 16) ||| ((((u8 (((v1 >>> 8) &&& 0xff))))) <<< 8) ||| (((u8 (((v1) &&& 0xff))))),
        ((((u8 (((v2 >>> 32) &&& 0xff))))) <<< 32) ||| ((((u8 (((v2 >>> 24) &&& 0xff))))) <<< 24) ||| ((((u8 (((v2 >>> 16) &&& 0xff))))) <<< 16) ||| ((((u8 (((v2 >>> 8) &&& 0xff))))) <<< 8) ||| (((u8 (((v2) &&& 0xff))))),
        ((((u8 (((v3 >>> 32) &&& 0xff))))) <<< 32) ||| ((((u8 (((v3 >>> 24) &&& 0xff))))) <<< 24) ||| ((((u8 (((v3 >>> 16) &&& 0xff))))) <<< 16) ||| ((((u8 (((v3 >>> 8) &&& 0xff))))) <<< 8) ||| (((u8 (((v3) &&& 0xff))))),
        ((((u8 (((v4 >>> 32) &&& 0xff))))) <<< 32) ||| ((((u8 (((v4 >>> 24) &&& 0xff))))) <<< 24) ||| ((((u8 (((v4 >>> 16) &&& 0xff))))) <<< 16) ||| ((((u8 (((v4 >>> 8) &&& 0xff))))) <<< 8) ||| (((u8 (((v4) &&& 0xff))))),
        ((((u8 (((v5 >>> 32) &&& 0xff))))) <<< 32) ||| ((((u8 (((v5 >>> 24) &&& 0xff))))) <<< 24) ||| ((((u8 (((v5 >>> 16) &&& 0xff))))) <<< 16) ||| ((((u8 (((v5 >>> 8) &&& 0xff))))) <<< 8) ||| (((u8 (((v5) &&& 0xff))))),
        ((((u8 (((v6 >>> 32) &&& 0xff))))) <<< 32) ||| ((((u8 (((v6 >>> 24) &&& 0xff))))) <<< 24) ||| ((((u8 (((v6 >>> 16) &&& 0xff))))) <<< 16) ||| ((((u8 (((v6 >>> 8) &&& 0xff))))) <<< 8) ||| (((u8 (((v6) &&& 0xff))))),
        ((((u8 (((v7 >>> 32) &&& 0xff))))) <<< 32) ||| ((((u8 (((v7 >>> 24) &&& 0xff))))) <<< 24) ||| ((((u8 (((v7 >>> 16) &&& 0xff))))) <<< 16) ||| ((((u8 (((v7 >>> 8) &&& 0xff))))) <<< 8) ||| (((u8 (((v7) &&& 0xff))))) ] := rfl
  rw [key]
  rw [upb40_c0 v0 h0,
    upb40_c1 v1 h1,
    upb40_c2 v2 h2,
    upb40_c3 v3 h3,
    upb40_c4 v4 h4,
    upb40_c5 v5 h5,
    upb40_c6 v6 h6,
    upb40_c7 v7 h7]

theorem upb41_c0 (v0 v1 : Nat) (hv : v0 < 2 ^ 41) :
    ((((u8 (((v0 >>> 33) &&& 0xff))))) <<< 33) ||| ((((u8 (((v0 >>> 25) &&& 0xff))))) <<< 25) ||| ((((u8 (((v0 >>> 17) &&& 0xff))))) <<< 17) ||| ((((u8 (((v0 >>> 9) &&& 0xff))))) <<< 9) ||| ((((u8 (((v0 >>> 1) &&& 0xff))))) <<< 1) ||| ((((u8 (((((v0) &&& 0x1) <<< 7) ||| ((v1 >>> 34) &&& 0x7f)))) >>> 7) &&& 0x1)) = v0 := by
  rw [step_top v0 41 33 rfl hv]
  rw [step_mid v0 33 25 rfl]
  rw [step_mid v0 25 17 rfl]
  rw [step_mid v0 17 9 rfl]
  rw [step_mid v0 9 1 rfl]
  rw [step_last v0 (((v1 >>> 34) &&& 0x7f)) 7 1 1 rfl rfl
    (Nat.and_lt_two_pow _ (by norm_num))]

theorem upb41_c1 (v0 v1 v2 : Nat) (hv : v1 < 2 ^ 41) :
    (((((u8 (((((v0) &&& 0x1) <<< 7) ||| ((v1 >>> 34) &&& 0x7f))))) &&& 0x7f)) <<< 34) ||| ((((u8 (((v1 >>> 26) &&& 0xff))))) <<< 26) ||| ((((u8 (((v1 >>> 18) &&& 0xff))))) <<< 18) ||| ((((u8 (((v1 >>> 10) &&& 0xff))))) <<< 10) ||| ((((u8 (((v1 >>> 2) &&& 0xff))))) <<< 2) ||| ((((u8 (((((v1) &&& 0x3) <<< 6) ||| ((v2 >>> 35) &&& 0x3f)))) >>> 6) &&& 0x3)) = v1 := by
  rw [step_first (((v0) &&& 0x1)) v1 41 34 7 127 rfl rfl (by norm_num) hv]
  rw [step_mid v1 34 26 rfl]
  rw [step_mid v1 26 18 rfl]
  rw [step_mid v1 18 10 rfl]
  rw [step_mid v1 10 2 rfl]
  rw [step_last v1 (((v2 >>> 35) &&& 0x3f)) 6 2 3 rfl rfl
    (Nat.and_lt_two_pow _ (by norm_num))]

theorem upb41_c2 (v1 v2 v3 : Nat) (hv : v2 < 2 ^ 41) :
    (((((u8 (((((v1) &&& 0x3) <<< 6) ||| ((v2 >>> 35) &&& 0x3f))))) &&& 0x3f)) <<< 35) ||| ((((u8 (((v2 >>> 27) &&& 0xff))))) <<< 27) ||| ((((u8 (((v2 >>> 19) &&& 0xff))))) <<< 19) ||| ((((u8 (((v2 >>> 11) &&& 0xff))))) <<< 11) ||| ((((u8 (((v2 >>> 3) &&& 0xff))))) <<< 3) ||| ((((u8 (((((v2) &&& 0x7) <<< 5) ||| ((v3 >>> 36) &&& 0x1f)))) >>> 5) &&& 0x7)) = v2 := by
  rw [step_first (((v1) &&& 0x3)) v2 41 35 6 63 rfl rfl (by norm_num) hv]
  rw [step_mid v2 35 27 rfl]
  rw [step_mid v2 27 19 rfl]
  rw [step_mid v2 19 11 rfl]
  rw [step_mid v2 11 3 rfl]
  rw [step_last v2 (((v3 >>> 36) &&& 0x1f)) 5 3 7 rfl rfl
    (Nat.and_lt_two_pow _ (by norm_num))]

theorem upb41_c3 (v2 v3 v4 : Nat) (hv : v3 < 2 ^ 41) :
    (((((u8 (((((v2) &&& 0x7) <<< 5) ||| ((v3 >>> 36) &&& 0x1f))))) &&& 0x1f)) <<< 36) ||| ((((u8 (((v3 >>> 28) &&& 0xff))))) <<< 28) ||| ((((u8 (((v3 >>> 20) &&& 0xff))))) <<< 20) ||| ((((u8 (((v3 >>> 12) &&& 0xff))))) <<< 12) ||| ((((u8 (((v3 >>> 4) &&& 0xff))))) <<< 4) ||| ((((u8 (((((v3) &&& 0xf) <<< 4) ||| ((v4 >>> 37) &&& 0xf)))) >>> 4) &&& 0xf)) = v3 := by
  rw [step_first (((v2) &&& 0x7)) v3 41 36 5 31 rfl rfl (by norm_num) hv]
  rw [step_mid v3 36 28 rfl]
  rw [step_mid v3 28 20 rfl]
  rw [step_mid v3 20 12 rfl]
  rw [step_mid v3 12 4 rfl]
  rw [step_last v3 (((v4 >>> 37) &&& 0xf)) 4 4 15 rfl rfl
    (Nat.and_lt_two_pow _ (by norm_num))]

theorem upb41_c4 (v3 v4 v5 : Nat) (hv : v4 < 2 ^ 41) :
    (((((u8 (((((v3) &&& 0xf) <<< 4) ||| ((v4 >>> 37) &&& 0xf))))) &&& 0xf)) <<< 37) ||| ((((u8 (((v4 >>> 29) &&& 0xff))))) <<< 29) ||| ((((u8 (((v4 >>> 21) &&& 0xff))))) <<< 21) ||| ((((u8 (((v4 >>> 13) &&& 0xff))))) <<< 13) ||| ((((u8 (((v4 >>> 5) &&& 0xff))))) <<< 5) ||| ((((u8 (((((v4) &&& 0x1f) <<< 3) ||| ((v5 >>> 38) &&& 0x7)))) >>> 3) &&& 0x1f)) = v4 := by
  rw [step_first (((v3) &&& 0xf)) v4 41 37 4 15 rfl rfl (by norm_num) hv]
  rw [step_mid v4 37 29 rfl]
  rw [step_mid v4 29 21 rfl]
  rw [step_mid v4 21 13 rfl]
  rw [step_mid v4 13 5 rfl]
  rw [step_last v4 (((v5 >>> 38) &&& 0x7)) 3 5 31 rfl rfl
    (Nat.and_lt_two_pow _ (by norm_num))]

theorem upb41_c5 (v4 v5 v6 : Nat) (hv : v5 < 2 ^ 41) :
    (((((u8 (((((v4) &&& 0x1f) <<< 3) ||| ((v5 >>> 38) &&& 0x7))))) &&& 0x7)) <<< 38) ||| ((((u8 (((v5 >>> 30) &&& 0xff))))) <<< 30) ||| ((((u8 (((v5 >>> 22) &&& 0xff))))) <<< 22) ||| ((((u8 (((v5 >>> 14) &&& 0xff))))) <<< 14) ||| ((((u8 (((v5 >>> 6) &&& 0xff))))) <<< 6) ||| ((((u8 (((((v5) &&& 0x3f) <<< 2) ||| ((v6 >>> 39) &&& 0x3)))) >>> 2) &&& 0x3f)) = v5 := by
  rw [step_first (((v4) &&& 0x1f)) v5 41 38 3 7 rfl rfl (by norm_num) hv]
  rw [step_mid v5 38 30 rfl]
  rw [step_mid v5 30 22 rfl]
  rw [step_mid v5 22 14 rfl]
  rw [step_mid v5 14 6 rfl]
  rw [step_last v5 (((v6 >>> 39) &&& 0x3)) 2 6 63 rfl rfl
    (Nat.and_lt_two_pow _ (by norm_num))]

theorem upb41_c6 (v5 v6 v7 : Nat) (hv : v6 < 2 ^ 41) :
    (((((u8 (((((v5) &&& 0x3f) <<< 2) ||| ((v6 >>> 39) &&& 0x3))))) &&& 0x3)) <<< 39) ||| ((((u8 (((v6 >>> 31) &&& 0xff))))) <<< 31) ||| ((((u8 (((v6 >>> 23) &&& 0xff))))) <<< 23) ||| ((((u8 (((v6 >>> 15) &&& 0xff))))) <<< 15) ||| ((((u8 (((v6 >>> 7) &&& 0xff))))) <<< 7) ||| ((((u8 (((((v6) &&& 0x7f) <<< 1) ||| ((v7 >>> 40) &&& 0x1)))) >>> 1) &&& 0x7f)) = v6 := by
  rw [step_first (((v5) &&& 0x3f)) v6 41 39 2 3 rfl rfl (by norm_num) hv]
  rw [step_mid v6 39 31 rfl]
  rw [step_mid v6 31 23 rfl]
  rw [step_mid v6 23 15 rfl]
  rw [step_mid v6 15 7 rfl]
  rw [step_last v6 (((v7 >>> 40) &&& 0x1)) 1 7 127 rfl rfl
    (Nat.and_lt_two_pow _ (by norm_num))]

theorem upb41_c7 (v6 v7 : Nat) (hv : v7 < 2 ^ 41) :
    (((((u8 (((((v6) &&& 0x7f) <<< 1) ||| ((v7 >>> 40) &&& 0x1))))) &&& 0x1)) <<< 40) ||| ((((u8 (((v7 >>> 32) &&& 0xff))))) <<< 32) ||| ((((u8 (((v7 >>> 24) &&& 0xff))))) <<< 24) ||| ((((u8 (((v7 >>> 16) &&& 0xff))))) <<< 16) ||| ((((u8 (((v7 >>> 8) &&& 0xff))))) <<< 8) ||| (((u8 (((v7) &&& 0xff))))) = v7 := by
  rw [step_first (((v6) &&& 0x7f)) v7 41 40 1 1 rfl rfl (by norm_num) hv]
  rw [step_mid v7 40 32 rfl]
  rw [step_mid v7 32 24 rfl]
  rw [step_mid v7 24 16 rfl]
  rw [step_mid v7 16 8 rfl]
  rw [step_low v7]

theorem unpack_pack_bits_41 (v0 v1 v2 v3 v4 v5 v6 v7 : Nat)
    (h0 : v0 < 2 ^ 41) (h1 : v1 < 2 ^ 41) (h2 : v2 < 2 ^ 41) (h3 : v3 < 2 ^ 41) (h4 : v4 < 2 ^ 41) (h5 : v5 < 2 ^ 41) (h6 : v6 < 2 ^ 41) (h7 : v7 < 2 ^ 41) :
    unpack_bits_41 (pack_bits_41 v0 v1 v2 v3 v4 v5 v6 v7) =
      [v0, v1, v2, v3, v4, v5, v6, v7] := by
  have key : unpack_bits_41 (pack_bits_41 v0 v1 v2 v3 v4 v5 v6 v7) =
      [ ((((u8 (((v0 >>> 33) &&& 0xff))))) <<< 33) ||| ((((u8 (((v0 >>> 25) &&& 0xff))))) <<< 25) ||| ((((u8 (((v0 >>> 17) &&& 0xff))))) <<< 17) ||| ((((u8 (((v0 >>> 9) &&& 0xff))))) <<< 9) ||| ((((u8 (((v0 >>> 1) &&& 0xff))))) <<< 1) ||| ((((u8 (((((v0) &&& 0x1) <<< 7) ||| ((v1 >>> 34) &&& 0x7f)))) >>> 7) &&& 0x1)),
        (((((u8 (((((v0) &&& 0x1) <<< 7) ||| ((v1 >>> 34) &&& 0x7f))))) &&& 0x7f)) <<< 34) ||| ((((u8 (((v1 >>> 26) &&& 0xff))))) <<< 26) ||| ((((u8 (((v1 >>> 18) &&& 0xff))))) <<< 18) ||| ((((u8 (((v1 >>> 10) &&& 0xff))))) <<< 10) ||| ((((u8 (((v1 >>> 2) &&& 0xff))))) <<< 2) ||| ((((u8 (((((v1) &&& 0x3) <<< 6) ||| ((v2 >>> 35) &&& 0x3f)))) >>> 6) &&& 0x3)),
        (((((u8 (((((v1) &&& 0x3) <<< 6) ||| ((v2 >>> 35) &&& 0x3f))))) &&& 0x3f)) <<< 35) ||| ((((u8 (((v2 >>> 27) &&& 0xff))))) <<< 27) ||| ((((u8 (((v2 >>> 19) &&& 0xff))))) <<< 19) ||| ((((u8 (((v2 >>> 11) &&& 0xff))))) <<< 11) ||| ((((u8 (((v2 >>> 3) &&& 0xff))))) <<< 3) ||| ((((u8 (((((v2) &&& 0x7) <<< 5) ||| ((v3 >>> 36) &&& 0x1f)))) >>> 5) &&& 0x7)),
        (((((u8 (((((v2) &&& 0x7) <<< 5) ||| ((v3 >>> 36) &&& 0x1f))))) &&& 0x1f)) <<< 36) ||| ((((u8 (((v3 >>> 28) &&& 0xff))))) <<< 28) ||| ((((u8 (((v3 >>> 20) &&& 0xff))))) <<< 20) ||| ((((u8 (((v3 >>> 12) &&& 0xff))))) <<< 12) ||| ((((u8 (((v3 >>> 4) &&& 0xff))))) <<< 4) ||| ((((u8 (((((v3) &&& 0xf) <<< 4) ||| ((v4 >>> 37) &&& 0xf)))) >>> 4) &&& 0xf)),
        (((((u8 (((((v3) &&& 0xf) <<< 4) ||| ((v4 >>> 37) &&& 0xf))))) &&& 0xf)) <<< 37) ||| ((((u8 (((v4 >>> 29) &&& 0xff))))) <<< 29) ||| ((((u8 (((v4 >>> 21) &&& 0xff))))) <<< 21) ||| ((((u8 (((v4 >>> 13) &&& 0xff))))) <<< 13) ||| ((((u8 (((v4 >>> 5) &&& 0xff))))) <<< 5) ||| ((((u8 (((((v4) &&& 0x1f) <<< 3) ||| ((v5 >>> 38) &&& 0x7)))) >>> 3) &&& 0x1f)),
        (((((u8 (((((v4) &&& 0x1f) <<< 3) ||| ((v5 >>> 38) &&& 0x7))))) &&& 0x7)) <<< 38) ||| ((((u8 (((v5 >>> 30) &&& 0xff))))) <<< 30) ||| ((((u8 (((v5 >>> 22) &&& 0xff))))) <<< 22) ||| ((((u8 (((v5 >>> 14) &&& 0xff))))) <<< 14) ||| ((((u8 (((v5 >>> 6) &&& 0xff))))) <<< 6) ||| ((((u8 (((((v5) &&& 0x3f) <<< 2) ||| ((v6 >>> 39) &&& 0x3)))) >>> 2) &&& 0x3f)),
        (((((u8 (((((v5) &&& 0x3f) <<< 2) ||| ((v6 >>> 39) &&& 0x3))))) &&& 0x3)) <<< 39) ||| ((((u8 (((v6 >>> 31) &&& 0xff))))) <<< 31) ||| ((((u8 (((v6 >>> 23) &&& 0xff))))) <<< 23) ||| ((((u8 (((v6 >>> 15) &&& 0xff))))) <<< 15) ||| ((((u8 (((v6 >>> 7) &&& 0xff))))) <<< 7) ||| ((((u8 (((((v6) &&& 0x7f) <<< 1) ||| ((v7 >>> 40) &&& 0x1)))) >>> 1) &&& 0x7f)),
        (((((u8 (((((v6) &&& 0x7f) <<< 1) ||| ((v7 >>> 40) &&& 0x1))))) &&& 0x1)) <<< 40) ||| ((((u8 (((v7 >>> 32) &&& 0xff))))) <<< 32) ||| ((((u8 (((v7 >>> 24) &&& 0xff))))) <<< 24) ||| ((((u8 (((v7 >>> 16) &&& 0xff))))) <<< 16) ||| ((((u8 (((v7 >>> 8) &&& 0xff))))) <<< 8) ||| (((u8 (((v7) &&& 0xff))))) ] := rfl
  rw [key]
  rw [upb41_c0 v0 v1 h0,
    upb41_c1 v0 v1 v2 h1,
    upb41_c2 v1 v2 v3 h2,
    upb41_c3 v2 v3 v4 h3,
    upb41_c4 v3 v4 v5 h4,
    upb41_c5 v4 v5 v6 h5,
    upb41_c6 v5 v6 v7 h6,
    upb41_c7 v6 v7 h7]

theorem upb42_c0 (v0 v1 : Nat) (hv : v0 < 2 ^ 42) :
    ((((u8 (((v0 >>> 34) &&& 0xff))))) <<< 34) ||| ((((u8 (((v0 >>> 26) &&& 0xff))))) <<< 26) ||| ((((u8 (((v0 >>> 18) &&& 0xff))))) <<< 18) ||| ((((u8 (((v0 >>> 10) &&& 0xff))))) <<< 10) ||| ((((u8 (((v0 >>> 2) &&& 0xff))))) <<< 2) ||| ((((u8 (((((v0) &&& 0x3) <<< 6) ||| ((v1 >>> 36) &&& 0x3f)))) >>> 6) &&& 0x3)) = v0 := by
  rw [step_top v0 42 34 rfl hv]
  rw [step_mid v0 34 26 rfl]
  rw [step_mid v0 26 18 rfl]
  rw [step_mid v0 18 10 rfl]
  rw [step_mid v0 10 2 rfl]
  rw [step_last v0 (((v1 >>> 36) &&& 0x3f)) 6 2 3 rfl rfl
    (Nat.and_lt_two_pow _ (by norm_num))]

theorem upb42_c1 (v0 v1 v2 : Nat) (hv : v1 < 2 ^ 42) :
    (((((u8 (((((v0) &&& 0x3) <<< 6) ||| ((v1 >>> 36) &&& 0x3f))))) &&& 0x3f)) <<< 36) ||| ((((u8 (((v1 >>> 28) &&& 0xff))))) <<< 28) ||| ((((u8 (((v1 >>> 20) &&& 0xff))))) <<< 20) ||| ((((u8 (((v1 >>> 12) &&& 0xff))))) <<< 12) ||| ((((u8 (((v1 >>> 4) &&& 0xff))))) <<< 4) ||| ((((u8 (((((v1) &&& 0xf) <<< 4) ||| ((v2 >>> 38) &&& 0xf)))) >>> 4) &&& 0xf)) = v1 := by
  rw [step_first (((v0) &&& 0x3)) v1 42 36 6 63 rfl rfl (by norm_num) hv]
  rw [step_mid v1 36 28 rfl]
  rw [step_mid v1 28 20 rfl]
  rw [step_mid v1 20 12 rfl]
  rw [step_mid v1 12 4 rfl]
  rw [step_last v1 (((v2 >>> 38) &&& 0xf)) 4 4 15 rfl rfl
    (Nat.and_lt_two_pow _ (by norm_num))]

theorem upb42_c2 (v1 v2 v3 : Nat) (hv : v2 < 2 ^ 42) :
    (((((u8 (((((v1) &&& 0xf) <<< 4) ||| ((v2 >>> 38) &&& 0xf))))) &&& 0xf)) <<< 38) ||| ((((u8 (((v2 >>> 30) &&& 0xff))))) <<< 30) ||| ((((u8 (((v2 >>> 22) &&& 0xff))))) <<< 22) ||| ((((u8 (((v2 >>> 14) &&& 0xff))))) <<< 14) ||| ((((u8 (((v2 >>> 6) &&& 0xff))))) <<< 6) ||| ((((u8 (((((v2) &&& 0x3f) <<< 2) ||| ((v3 >>> 40) &&& 0x3)))) >>> 2) &&& 0x3f)) = v2 := by
  rw [step_first (((v1) &&& 0xf)) v2 42 38 4 15 rfl rfl (by norm_num) hv]
  rw [step_mid v2 38 30 rfl]
  rw [step_mid v2 30 22 rfl]
  rw [step_mid v2 22 14 rfl]
  rw [step_mid v2 14 6 rfl]
  rw [step_last v2 (((v3 >>> 40) &&& 0x3)) 2 6 63 rfl rfl
    (Nat.and_lt_two_pow _ (by norm_num))]

theorem upb42_c3 (v2 v3 : Nat) (hv : v3 < 2 ^ 42) :
    (((((u8 (((((v2) &&& 0x3f) <<< 2) ||| ((v3 >>> 40) &&& 0x3))))) &&& 0x3)) <<< 40) ||| ((((u8 (((v3 >>> 32) &&& 0xff))))) <<< 32) ||| ((((u8 (((v3 >>> 24) &&& 0xff))))) <<< 24) ||| ((((u8 (((v3 >>> 16) &&& 0xff))))) <<< 16) ||| ((((u8 (((v3 >>> 8) &&& 0xff))))) <<< 8) ||| (((u8 (((v3) &&& 0xff))))) = v3 := by
  rw [step_first (((v2) &&& 0x3f)) v3 42 40 2 3 rfl rfl (by norm_num) hv]
  rw [step_mid v3 40 32 rfl]
  rw [step_mid v3 32 24 rfl]
  rw [step_mid v3 24 16 rfl]
  rw [step_mid v3 16 8 rfl]
  rw [step_low v3]

theorem upb42_c4 (v4 v5 : Nat) (hv : v4 < 2 ^ 42) :
    ((((u8 (((v4 >>> 34) &&& 0xff))))) <<< 34) ||| ((((u8 (((v4 >>> 26) &&& 0xff))))) <<< 26) ||| ((((u8 (((v4 >>> 18) &&& 0xff))))) <<< 18) ||| ((((u8 (((v4 >>> 10) &&& 0xff))))) <<< 10) ||| ((((u8 (((v4 >>> 2) &&& 0xff))))) <<< 2) ||| ((((u8 (((((v4) &&& 0x3) <<< 6) ||| ((v5 >>> 36) &&& 0x3f)))) >>> 6) &&& 0x3)) = v4 := by
  rw [step_top v4 42 34 rfl hv]
  rw [step_mid v4 34 26 rfl]
  rw [step_mid v4 26 18 rfl]
  rw [step_mid v4 18 10 rfl]
  rw [step_mid v4 10 2 rfl]
  rw [step_last v4 (((v5 >>> 36) &&& 0x3f)) 6 2 3 rfl rfl
    (Nat.and_lt_two_pow _ (by norm_num))]

theorem upb42_c5 (v4 v5 v6 : Nat) (hv : v5 < 2 ^ 42) :
    (((((u8 (((((v4) &&& 0x3) <<< 6) ||| ((v5 >>> 36) &&& 0x3f))))) &&& 0x3f)) <<< 36) ||| ((((u8 (((v5 >>> 28) &&& 0xff))))) <<< 28) ||| ((((u8 (((v5 >>> 20) &&& 0xff))))) <<< 20) ||| ((((u8 (((v5 >>> 12) &&& 0xff))))) <<< 12) ||| ((((u8 (((v5 >>> 4) &&& 0xff))))) <<< 4) ||| ((((u8 (((((v5) &&& 0xf) <<< 4) ||| ((v6 >>> 38) &&& 0xf)))) >>> 4) &&& 0xf)) = v5 := by
  rw [step_first (((v4) &&& 0x3)) v5 42 36 6 63 rfl rfl (by norm_num) hv]
  rw [step_mid v5 36 28 rfl]
  rw [step_mid v5 28 20 rfl]
  rw [step_mid v5 20 12 rfl]
  rw [step_mid v5 12 4 rfl]
  rw [step_last v5 (((v6 >>> 38) &&& 0xf)) 4 4 15 rfl rfl
    (Nat.and_lt_two_pow _ (by norm_num))]

theorem upb42_c6 (v5 v6 v7 : Nat) (hv : v6 < 2 ^ 42) :
    (((((u8 (((((v5) &&& 0xf) <<< 4) ||| ((v6 >>> 38) &&& 0xf))))) &&& 0xf)) <<< 38) ||| ((((u8 (((v6 >>> 30) &&& 0xff))))) <<< 30) ||| ((((u8 (((v6 >>> 22) &&& 0xff))))) <<< 22) ||| ((((u8 (((v6 >>> 14) &&& 0xff))))) <<< 14) ||| ((((u8 (((v6 >>> 6) &&& 0xff))))) <<< 6) ||| ((((u8 (((((v6) &&& 0x3f) <<< 2) ||| ((v7 >>> 40) &&& 0x3)))) >>> 2) &&& 0x3f)) = v6 := by
  rw [step_first (((v5) &&& 0xf)) v6 42 38 4 15 rfl rfl (by norm_num) hv]
  rw [step_mid v6 38 30 rfl]
  rw [step_mid v6 30 22 rfl]
  rw [step_mid v6 22 14 rfl]
  rw [step_mid v6 14 6 rfl]
  rw [step_last v6 (((v7 >>> 40) &&& 0x3)) 2 6 63 rfl rfl
    (Nat.and_lt_two_pow _ (by norm_num))]

theorem upb42_c7 (v6 v7 : Nat) (hv : v7 < 2 ^ 42) :
    (((((u8 (((((v6) &&& 0x3f) <<< 2) ||| ((v7 >>> 40) &&& 0x3))))) &&& 0x3)) <<< 40) ||| ((((u8 (((v7 >>> 32) &&& 0xff))))) <<< 32) ||| ((((u8 (((v7 >>> 24) &&& 0xff))))) <<< 24) ||| ((((u8 (((v7 >>> 16) &&& 0xff))))) <<< 16) ||| ((((u8 (((v7 >>> 8) &&& 0xff))))) <<< 8) ||| (((u8 (((v7) &&& 0xff))))) = v7 := by
  rw [step_first (((v6) &&& 0x3f)) v7 42 40 2 3 rfl rfl (by norm_num) hv]
  rw [step_mid v7 40 32 rfl]
  rw [step_mid v7 32 24 rfl]
  rw [step_mid v7 24 16 rfl]
  rw [step_mid v7 16 8 rfl]
  rw [step_low v7]

theorem unpack_pack_bits_42 (v0 v1 v2 v3 v4 v5 v6 v7 : Nat)
    (h0 : v0 < 2 ^ 42) (h1 : v1 < 2 ^ 42) (h2 : v2 < 2 ^ 42) (h3 : v3 < 2 ^ 42) (h4 : v4 < 2 ^ 42) (h5 : v5 < 2 ^ 42) (h6 : v6 < 2 ^ 42) (h7 : v7 < 2 ^ 42) :
    unpack_bits_42 (pack_bits_42 v0 v1 v2 v3 v4 v5 v6 v7) =
      [v0, v1, v2, v3, v4, v5, v6, v7] := by
  have key : unpack_bits_42 (pack_bits_42 v0 v1 v2 v3 v4 v5 v6 v7) =
      [ ((((u8 (((v0 >>> 34) &&& 0xff))))) <<< 34) ||| ((((u8 (((v0 >>> 26) &&& 0xff))))) <<< 26) ||| ((((u8 (((v0 >>> 18) &&& 0xff))))) <<< 18) ||| ((((u8 (((v0 >>> 10) &&& 0xff))))) <<< 10) ||| ((((u8 (((v0 >>> 2) &&& 0xff))))) <<< 2) ||| ((((u8 (((((v0) &&& 0x3) <<< 6) ||| ((v1 >>> 36) &&& 0x3f)))) >>> 6) &&& 0x3)),
        (((((u8 (((((v0) &&& 0x3) <<< 6) ||| ((v1 >>> 36) &&& 0x3f))))) &&& 0x3f)) <<< 36) ||| ((((u8 (((v1 >>> 28) &&& 0xff))))) <<< 28) ||| ((((u8 (((v1 >>> 20) &&& 0xff))))) <<< 20) ||| ((((u8 (((v1 >>> 12) &&& 0xff))))) <<< 12) ||| ((((u8 (((v1 >>> 4) &&& 0xff))))) <<< 4) ||| ((((u8 (((((v1) &&& 0xf) <<< 4) ||| ((v2 >>> 38) &&& 0xf)))) >>> 4) &&& 0xf)),
        (((((u8 (((((v1) &&& 0xf) <<< 4) ||| ((v2 >>> 38) &&& 0xf))))) &&& 0xf)) <<< 38) ||| ((((u8 (((v2 >>> 30) &&& 0xff))))) <<< 30) ||| ((((u8 (((v2 >>> 22) &&& 0xff))))) <<< 22) ||| ((((u8 (((v2 >>> 14) &&& 0xff))))) <<< 14) ||| ((((u8 (((v2 >>> 6) &&& 0xff))))) <<< 6) ||| ((((u8 (((((v2) &&& 0x3f) <<< 2) ||| ((v3 >>> 40) &&& 0x3)))) >>> 2) &&& 0x3f)),
        (((((u8 (((((v2) &&& 0x3f) <<< 2) ||| ((v3 >>> 40) &&& 0x3))))) &&& 0x3)) <<< 40) ||| ((((u8 (((v3 >>> 32) &&& 0xff))))) <<< 32) ||| ((((u8 (((v3 >>> 24) &&& 0xff))))) <<< 24) ||| ((((u8 (((v3 >>> 16) &&& 0xff))))) <<< 16) ||| ((((u8 (((v3 >>> 8) &&& 0xff))))) <<< 8) ||| (((u8 (((v3) &&& 0xff))))),
        ((((u8 (((v4 >>> 34) &&& 0xff))))) <<< 34) ||| ((((u8 (((v4 >>> 26) &&& 0xff))))) <<< 26) ||| ((((u8 (((v4 >>> 18) &&& 0xff))))) <<< 18) ||| ((((u8 (((v4 >>> 10) &&& 0xff))))) <<< 10) ||| ((((u8 (((v4 >>> 2) &&& 0xff))))) <<< 2) ||| ((((u8 (((((v4) &&& 0x3) <<< 6) ||| ((v5 >>> 36) &&& 0x3f)))) >>> 6) &&& 0x3)),
        (((((u8 (((((v4) &&& 0x3) <<< 6) ||| ((v5 >>> 36) &&& 0x3f))))) &&& 0x3f)) <<< 36) ||| ((((u8 (((v5 >>> 28) &&& 0xff))))) <<< 28) ||| ((((u8 (((v5 >>> 20) &&& 0xff))))) <<< 20) ||| ((((u8 (((v5 >>> 12) &&& 0xff))))) <<< 12) ||| ((((u8 (((v5 >>> 4) &&& 0xff))))) <<< 4) ||| ((((u8 (((((v5) &&& 0xf) <<< 4) ||| ((v6 >>> 38) &&& 0xf)))) >>> 4) &&& 0xf)),
        (((((u8 (((((v5) &&& 0xf) <<< 4) ||| ((v6 >>> 38) &&& 0xf))))) &&& 0xf)) <<< 38) ||| ((((u8 (((v6 >>> 30) &&& 0xff))))) <<< 30) ||| ((((u8 (((v6 >>> 22) &&& 0xff))))) <<< 22) ||| ((((u8 (((v6 >>> 14) &&& 0xff))))) <<< 14) ||| ((((u8 (((v6 >>> 6) &&& 0xff))))) <<< 6) ||| ((((u8 (((((v6) &&& 0x3f) <<< 2) ||| ((v7 >>> 40) &&& 0x3)))) >>> 2) &&& 0x3f)),
        (((((u8 (((((v6) &&& 0x3f) <<< 2) ||| ((v7 >>> 40) &&& 0x3))))) &&& 0x3)) <<< 40) ||| ((((u8 (((v7 >>> 32) &&& 0xff))))) <<< 32) ||| ((((u8 (((v7 >>> 24) &&& 0xff))))) <<< 24) ||| ((((u8 (((v7 >>> 16) &&& 0xff))))) <<< 16) ||| ((((u8 (((v7 >>> 8) &&& 0xff))))) <<< 8) ||| (((u8 (((v7) &&& 0xff))))) ] := rfl
  rw [key]
  rw [upb42_c0 v0 v1 h0,
    upb42_c1 v0 v1 v2 h1,
    upb42_c2 v1 v2 v3 h2,
    upb42_c3 v2 v3 h3,
    upb42_c4 v4 v5 h4,
    upb42_c5 v4 v5 v6 h5,
    upb42_c6 v5 v6 v7 h6,
    upb42_c7 v6 v7 h7]

theorem upb43_c0 (v0 v1 : Nat) (hv : v0 < 2 ^ 43) :
    ((((u8 (((v0 >>> 35) &&& 0xff))))) <<< 35) ||| ((((u8 (((v0 >>> 27) &&& 0xff))))) <<< 27) ||| ((((u8 (((v0 >>> 19) &&& 0xff))))) <<< 19) ||| ((((u8 (((v0 >>> 11) &&& 0xff))))) <<< 11) ||| ((((u8 (((v0 >>> 3) &&& 0xff))))) <<< 3) ||| ((((u8 (((((v0) &&& 0x7) <<< 5) ||| ((v1 >>> 38) &&& 0x1f)))) >>> 5) &&& 0x7)) = v0 := by
  rw [step_top v0 43 35 rfl hv]
  rw [step_mid v0 35 27 rfl]
  rw [step_mid v0 27 19 rfl]
  rw [step_mid v0 19 11 rfl]
  rw [step_mid v0 11 3 rfl]
  rw [step_last v0 (((v1 >>> 38) &&& 0x1f)) 5 3 7 rfl rfl
    (Nat.and_lt_two_pow _ (by norm_num))]

theorem upb43_c1 (v0 v1 v2 : Nat) (hv : v1 < 2 ^ 43) :
    (((((u8 (((((v0) &&& 0x7) <<< 5) ||| ((v1 >>> 38) &&& 0x1f))))) &&& 0x1f)) <<< 38) ||| ((((u8 (((v1 >>> 30) &&& 0xff))))) <<< 30) ||| ((((u8 (((v1 >>> 22) &&& 0xff))))) <<< 22) ||| ((((u8 (((v1 >>> 14) &&& 0xff))))) <<< 14) ||| ((((u8 (((v1 >>> 6) &&& 0xff))))) <<< 6) ||| ((((u8 (((((v1) &&& 0x3f) <<< 2) ||| ((v2 >>> 41) &&& 0x3)))) >>> 2) &&& 0x3f)) = v1 := by
  rw [step_first (((v0) &&& 0x7)) v1 43 38 5 31 rfl rfl (by norm_num) hv]
  rw [step_mid v1 38 30 rfl]
  rw [step_mid v1 30 22 rfl]
  rw [step_mid v1 22 14 rfl]
  rw [step_mid v1 14 6 rfl]
  rw [step_last v1 (((v2 >>> 41) &&& 0x3)) 2 6 63 rfl rfl
    (Nat.and_lt_two_pow _ (by norm_num))]

theorem upb43_c2 (v1 v2 v3 : Nat) (hv : v2 < 2 ^ 43) :
    (((((u8 (((((v1) &&& 0x3f) <<< 2) ||| ((v2 >>> 41) &&& 0x3))))) &&& 0x3)) <<< 41) ||| ((((u8 (((v2 >>> 33) &&& 0xff))))) <<< 33) ||| ((((u8 (((v2 >>> 25) &&& 0xff))))) <<< 25) ||| ((((u8 (((v2 >>> 17) &&& 0xff))))) <<< 17) ||| ((((u8 (((v2 >>> 9) &&& 0xff))))) <<< 9) ||| ((((u8 (((v2 >>> 1) &&& 0xff))))) <<< 1) ||| ((((u8 (((((v2) &&& 0x1) <<< 7) ||| ((v3 >>> 36) &&& 0x7f)))) >>> 7) &&& 0x1)) = v2 := by
  rw [step_first (((v1) &&& 0x3f)) v2 43 41 2 3 rfl rfl (by norm_num) hv]
  rw [step_mid v2 41 33 rfl]
  rw [step_mid v2 33 25 rfl]
  rw [step_mid v2 25 17 rfl]
  rw [step_mid v2 17 9 rfl]
  rw [step_mid v2 9 1 rfl]
  rw [step_last v2 (((v3 >>> 36) &&& 0x7f)) 7 1 1 rfl rfl
    (Nat.and_lt_two_pow _ (by norm_num))]

theorem upb43_c3 (v2 v3 v4 : Nat) (hv : v3 < 2 ^ 43) :
    (((((u8 (((((v2) &&& 0x1) <<< 7) ||| ((v3 >>> 36) &&& 0x7f))))) &&& 0x7f)) <<< 36) ||| ((((u8 (((v3 >>> 28) &&& 0xff))))) <<< 28) ||| ((((u8 (((v3 >>> 20) &&& 0xff))))) <<< 20) ||| ((((u8 (((v3 >>> 12) &&& 0xff))))) <<< 12) ||| ((((u8 (((v3 >>> 4) &&& 0xff))))) <<< 4) ||| ((((u8 (((((v3) &&& 0xf) <<< 4) ||| ((v4 >>> 39) &&& 0xf)))) >>> 4) &&& 0xf)) = v3 := by
  rw [step_first (((v2) &&& 0x1)) v3 43 36 7 127 rfl rfl (by norm_num) hv]
  rw [step_mid v3 36 28 rfl]
  rw [step_mid v3 28 20 rfl]
  rw [step_mid v3 20 12 rfl]
  rw [step_mid v3 12 4 rfl]
  rw [step_last v3 (((v4 >>> 39) &&& 0xf)) 4 4 15 rfl rfl
    (Nat.and_lt_two_pow _ (by norm_num))]

theorem upb43_c4 (v3 v4 v5 : Nat) (hv : v4 < 2 ^ 43) :
    (((((u8 (((((v3) &&& 0xf) <<< 4) ||| ((v4 >>> 39) &&& 0xf))))) &&& 0xf)) <<< 39) ||| ((((u8 (((v4 >>> 31) &&& 0xff))))) <<< 31) ||| ((((u8 (((v4 >>> 23) &&& 0xff))))) <<< 23) ||| ((((u8 (((v4 >>> 15) &&& 0xff))))) <<< 15) ||| ((((u8 (((v4 >>> 7) &&& 0xff))))) <<< 7) ||| ((((u8 (((((v4) &&& 0x7f) <<< 1) ||| ((v5 >>> 42) &&& 0x1)))) >>> 1) &&& 0x7f)) = v4 := by
  rw [step_first (((v3) &&& 0xf)) v4 43 39 4 15 rfl rfl (by norm_num) hv]
  rw [step_mid v4 39 31 rfl]
  rw [step_mid v4 31 23 rfl]
  rw [step_mid v4 23 15 rfl]
  rw [step_mid v4 15 7 rfl]
  rw [step_last v4 (((v5 >>> 42) &&& 0x1)) 1 7 127 rfl rfl
    (Nat.and_lt_two_pow _ (by norm_num))]

theorem upb43_c5 (v4 v5 v6 : Nat) (hv : v5 < 2 ^ 43) :
    (((((u8 (((((v4) &&& 0x7f) <<< 1) ||| ((v5 >>> 42) &&& 0x1))))) &&& 0x1)) <<< 42) ||| ((((u8 (((v5 >>> 34) &&& 0xff))))) <<< 34) ||| ((((u8 (((v5 >>> 26) &&& 0xff))))) <<< 26) ||| ((((u8 (((v5 >>> 18) &&& 0xff))))) <<< 18) ||| ((((u8 (((v5 >>> 10) &&& 0xff))))) <<< 10) ||| ((((u8 (((v5 >>> 2) &&& 0xff))))) <<< 2) ||| ((((u8 (((((v5) &&& 0x3) <<< 6) ||| ((v6 >>> 37) &&& 0x3f)))) >>> 6) &&& 0x3)) = v5 := by
  rw [step_first (((v4) &&& 0x7f)) v5 43 42 1 1 rfl rfl (by norm_num) hv]
  rw [step_mid v5 42 34 rfl]
  rw [step_mid v5 34 26 rfl]
  rw [step_mid v5 26 18 rfl]
  rw [step_mid v5 18 10 rfl]
  rw [step_mid v5 10 2 rfl]
  rw [step_last v5 (((v6 >>> 37) &&& 0x3f)) 6 2 3 rfl rfl
    (Nat.and_lt_two_pow _ (by norm_num))]

theorem upb43_c6 (v5 v6 v7 : Nat) (hv : v6 < 2 ^ 43) :
    (((((u8 (((((v5) &&& 0x3) <<< 6) ||| ((v6 >>> 37) &&& 0x3f))))) &&& 0x3f)) <<< 37) ||| ((((u8 (((v6 >>> 29) &&& 0xff))))) <<< 29) ||| ((((u8 (((v6 >>> 21) &&& 0xff))))) <<< 21) ||| ((((u8 (((v6 >>> 13) &&& 0xff))))) <<< 13) ||| ((((u8 (((v6 >>> 5) &&& 0xff))))) <<< 5) ||| ((((u8 (((((v6) &&& 0x1f) <<< 3) ||| ((v7 >>> 40) &&& 0x7)))) >>> 3) &&& 0x1f)) = v6 := by
  rw [step_first (((v5) &&& 0x3)) v6 43 37 6 63 rfl rfl (by norm_num) hv]
  rw [step_mid v6 37 29 rfl]
  rw [step_mid v6 29 21 rfl]
  rw [step_mid v6 21 13 rfl]
  rw [step_mid v6 13 5 rfl]
  rw [step_last v6 (((v7 >>> 40) &&& 0x7)) 3 5 31 rfl rfl
    (Nat.and_lt_two_pow _ (by norm_num))]

theorem upb43_c7 (v6 v7 : Nat) (hv : v7 < 2 ^ 43) :
    (((((u8 (((((v6) &&& 0x1f) <<< 3) ||| ((v7 >>> 40) &&& 0x7))))) &&& 0x7)) <<< 40) ||| ((((u8 (((v7 >>> 32) &&& 0xff))))) <<< 32) ||| ((((u8 (((v7 >>> 24) &&& 0xff))))) <<< 24) ||| ((((u8 (((v7 >>> 16) &&& 0xff))))) <<< 16) ||| ((((u8 (((v7 >>> 8) &&& 0xff))))) <<< 8) ||| (((u8 (((v7) &&& 0xff))))) = v7 := by
  rw [step_first (((v6) &&& 0x1f)) v7 43 40 3 7 rfl rfl (by norm_num) hv]
  rw [step_mid v7 40 32 rfl]
  rw [step_mid v7 32 24 rfl]
  rw [step_mid v7 24 16 rfl]
  rw [step_mid v7 16 8 rfl]
  rw [step_low v7]

theorem unpack_pack_bits_43 (v0 v1 v2 v3 v4 v5 v6 v7 : Nat)
    (h0 : v0 < 2 ^ 43) (h1 : v1 < 2 ^ 43) (h2 : v2 < 2 ^ 43) (h3 : v3 < 2 ^ 43) (h4 : v4 < 2 ^ 43) (h5 : v5 < 2 ^ 43) (h6 : v6 < 2 ^ 43) (h7 : v7 < 2 ^ 43) :
    unpack_bits_43 (pack_bits_43 v0 v1 v2 v3 v4 v5 v6 v7) =
      [v0, v1, v2, v3, v4, v5, v6, v7] := by
  have key : unpack_bits_43 (pack_bits_43 v0 v1 v2 v3 v4 v5 v6 v7) =
      [ ((((u8 (((v0 >>> 35) &&& 0xff))))) <<< 35) ||| ((((u8 (((v0 >>> 27) &&& 0xff))))) <<< 27) ||| ((((u8 (((v0 >>> 19) &&& 0xff))))) <<< 19) ||| ((((u8 (((v0 >>> 11) &&& 0xff))))) <<< 11) ||| ((((u8 (((v0 >>> 3) &&& 0xff))))) <<< 3) ||| ((((u8 (((((v0) &&& 0x7) <<< 5) ||| ((v1 >>> 38) &&& 0x1f)))) >>> 5) &&& 0x7)),
        (((((u8 (((((v0) &&& 0x7) <<< 5) ||| ((v1 >>> 38) &&& 0x1f))))) &&& 0x1f)) <<< 38) ||| ((((u8 (((v1 >>> 30) &&& 0xff))))) <<< 30) ||| ((((u8 (((v1 >>> 22) &&& 0xff))))) <<< 22) ||| ((((u8 (((v1 >>> 14) &&& 0xff))))) <<< 14) ||| ((((u8 (((v1 >>> 6) &&& 0xff))))) <<< 6) ||| ((((u8 (((((v1) &&& 0x3f) <<< 2) ||| ((v2 >>> 41) &&& 0x3)))) >>> 2) &&& 0x3f)),
        (((((u8 (((((v1) &&& 0x3f) <<< 2) ||| ((v2 >>> 41) &&& 0x3))))) &&& 0x3)) <<< 41) ||| ((((u8 (((v2 >>> 33) &&& 0xff))))) <<< 33) ||| ((((u8 (((v2 >>> 25) &&& 0xff))))) <<< 25) ||| ((((u8 (((v2 >>> 17) &&& 0xff))))) <<< 17) ||| ((((u8 (((v2 >>> 9) &&& 0xff))))) <<< 9) ||| ((((u8 (((v2 >>> 1) &&& 0xff))))) <<< 1) ||| ((((u8 (((((v2) &&& 0x1) <<< 7) ||| ((v3 >>> 36) &&& 0x7f)))) >>> 7) &&& 0x1)),
        (((((u8 (((((v2) &&& 0x1) <<< 7) ||| ((v3 >>> 36) &&& 0x7f))))) &&& 0x7f)) <<< 36) ||| ((((u8 (((v3 >>> 28) &&& 0xff))))) <<< 28) ||| ((((u8 (((v3 >>> 20) &&& 0xff))))) <<< 20) ||| ((((u8 (((v3 >>> 12) &&& 0xff))))) <<< 12) ||| ((((u8 (((v3 >>> 4) &&& 0xff))))) <<< 4) ||| ((((u8 (((((v3) &&& 0xf) <<< 4) ||| ((v4 >>> 39) &&& 0xf)))) >>> 4) &&& 0xf)),
        (((((u8 (((((v3) &&& 0xf) <<< 4) ||| ((v4 >>> 39) &&& 0xf))))) &&& 0xf)) <<< 39) ||| ((((u8 (((v4 >>> 31) &&& 0xff))))) <<< 31) ||| ((((u8 (((v4 >>> 23) &&& 0xff))))) <<< 23) ||| ((((u8 (((v4 >>> 15) &&& 0xff))))) <<< 15) ||| ((((u8 (((v4 >>> 7) &&& 0xff))))) <<< 7) ||| ((((u8 (((((v4) &&& 0x7f) <<< 1) ||| ((v5 >>> 42) &&& 0x1)))) >>> 1) &&& 0x7f)),
        (((((u8 (((((v4) &&& 0x7f) <<< 1) ||| ((v5 >>> 42) &&& 0x1))))) &&& 0x1)) <<< 42) ||| ((((u8 (((v5 >>> 34) &&& 0xff))))) <<< 34) ||| ((((u8 (((v5 >>> 26) &&& 0xff))))) <<< 26) ||| ((((u8 (((v5 >>> 18) &&& 0xff))))) <<< 18) ||| ((((u8 (((v5 >>> 10) &&& 0xff))))) <<< 10) ||| ((((u8 (((v5 >>> 2) &&& 0xff))))) <<< 2) ||| ((((u8 (((((v5) &&& 0x3) <<< 6) ||| ((v6 >>> 37) &&& 0x3f)))) >>> 6) &&& 0x3)),
        (((((u8 (((((v5) &&& 0x3) <<< 6) ||| ((v6 >>> 37) &&& 0x3f))))) &&& 0x3f)) <<< 37) ||| ((((u8 (((v6 >>> 29) &&& 0xff))))) <<< 29) ||| ((((u8 (((v6 >>> 21) &&& 0xff))))) <<< 21) ||| ((((u8 (((v6 >>> 13) &&& 0xff))))) <<< 13) ||| ((((u8 (((v6 >>> 5) &&& 0xff))))) <<< 5) ||| ((((u8 (((((v6) &&& 0x1f) <<< 3) ||| ((v7 >>> 40) &&& 0x7)))) >>> 3) &&& 0x1f)),
        (((((u8 (((((v6) &&& 0x1f) <<< 3) ||| ((v7 >>> 40) &&& 0x7))))) &&& 0x7)) <<< 40) ||| ((((u8 (((v7 >>> 32) &&& 0xff))))) <<< 32) ||| ((((u8 (((v7 >>> 24) &&& 0xff))))) <<< 24) ||| ((((u8 (((v7 >>> 16) &&& 0xff))))) <<< 16) ||| ((((u8 (((v7 >>> 8) &&& 0xff))))) <<< 8) ||| (((u8 (((v7) &&& 0xff))))) ] := rfl
  rw [key]
  rw [upb43_c0 v0 v1 h0,
    upb43_c1 v0 v1 v2 h1,
    upb43_c2 v1 v2 v3 h2,
    upb43_c3 v2 v3 v4 h3,
    upb43_c4 v3 v4 v5 h4,
    upb43_c5 v4 v5 v6 h5,
    upb43_c6 v5 v6 v7 h6,
    upb43_c7 v6 v7 h7]

theorem upb44_c0 (v0 v1 : Nat) (hv : v0 < 2 ^ 44) :
    ((((u8 (((v0 >>> 36) &&& 0xff))))) <<< 36) ||| ((((u8 (((v0 >>> 28) &&& 0xff))))) <<< 28) ||| ((((u8 (((v0 >>> 20) &&& 0xff))))) <<< 20) ||| ((((u8 (((v0 >>> 12) &&& 0xff))))) <<< 12) ||| ((((u8 (((v0 >>> 4) &&& 0xff))))) <<< 4) ||| ((((u8 (((((v0) &&& 0xf) <<< 4) ||| ((v1 >>> 40) &&& 0xf)))) >>> 4) &&& 0xf)) = v0 := by
  rw [step_top v0 44 36 rfl hv]
  rw [step_mid v0 36 28 rfl]
  rw [step_mid v0 28 20 rfl]
  rw [step_mid v0 20 12 rfl]
  rw [step_mid v0 12 4 rfl]
  rw [step_last v0 (((v1 >>> 40) &&& 0xf)) 4 4 15 rfl rfl
    (Nat.and_lt_two_pow _ (by norm_num))]

theorem upb44_c1 (v0 v1 : Nat) (hv : v1 < 2 ^ 44) :
    (((((u8 (((((v0) &&& 0xf) <<< 4) ||| ((v1 >>> 40) &&& 0xf))))) &&& 0xf)) <<< 40) ||| ((((u8 (((v1 >>> 32) &&& 0xff))))) <<< 32) ||| ((((u8 (((v1 >>> 24) &&& 0xff))))) <<< 24) ||| ((((u8 (((v1 >>> 16) &&& 0xff))))) <<< 16) ||| ((((u8 (((v1 >>> 8) &&& 0xff))))) <<< 8) ||| (((u8 (((v1) &&& 0xff))))) = v1 := by
  rw [step_first (((v0) &&& 0xf)) v1 44 40 4 15 rfl rfl (by norm_num) hv]
  rw [step_mid v1 40 32 rfl]
  rw [step_mid v1 32 24 rfl]
  rw [step_mid v1 24 16 rfl]
  rw [step_mid v1 16 8 rfl]
  rw [step_low v1]

theorem upb44_c2 (v2 v3 : Nat) (hv : v2 < 2 ^ 44) :
    ((((u8 (((v2 >>> 36) &&& 0xff))))) <<< 36) ||| ((((u8 (((v2 >>> 28) &&& 0xff))))) <<< 28) ||| ((((u8 (((v2 >>> 20) &&& 0xff))))) <<< 20) ||| ((((u8 (((v2 >>> 12) &&& 0xff))))) <<< 12) ||| ((((u8 (((v2 >>> 4) &&& 0xff))))) <<< 4) ||| ((((u8 (((((v2) &&& 0xf) <<< 4) ||| ((v3 >>> 40) &&& 0xf)))) >>> 4) &&& 0xf)) = v2 := by
  rw [step_top v2 44 36 rfl hv]
  rw [step_mid v2 36 28 rfl]
  rw [step_mid v2 28 20 rfl]
  rw [step_mid v2 20 12 rfl]
  rw [step_mid v2 12 4 rfl]
  rw [step_last v2 (((v3 >>> 40) &&& 0xf)) 4 4 15 rfl rfl
    (Nat.and_lt_two_pow _ (by norm_num))]

theorem upb44_c3 (v2 v3 : Nat) (hv : v3 < 2 ^ 44) :
    (((((u8 (((((v2) &&& 0xf) <<< 4) ||| ((v3 >>> 40) &&& 0xf))))) &&& 0xf)) <<< 40) ||| ((((u8 (((v3 >>> 32) &&& 0xff))))) <<< 32) ||| ((((u8 (((v3 >>> 24) &&& 0xff))))) <<< 24) ||| ((((u8 (((v3 >>> 16) &&& 0xff))))) <<< 16) ||| ((((u8 (((v3 >>> 8) &&& 0xff))))) <<< 8) ||| (((u8 (((v3) &&& 0xff))))) = v3 := by
  rw [step_first (((v2) &&& 0xf)) v3 44 40 4 15 rfl rfl (by norm_num) hv]
  rw [step_mid v3 40 32 rfl]
  rw [step_mid v3 32 24 rfl]
  rw [step_mid v3 24 16 rfl]
  rw [step_mid v3 16 8 rfl]
  rw [step_low v3]

theorem upb44_c4 (v4 v5 : Nat) (hv : v4 < 2 ^ 44) :
    ((((u8 (((v4 >>> 36) &&& 0xff))))) <<< 36) ||| ((((u8 (((v4 >>> 28) &&& 0xff))))) <<< 28) ||| ((((u8 (((v4 >>> 20) &&& 0xff))))) <<< 20) ||| ((((u8 (((v4 >>> 12) &&& 0xff))))) <<< 12) ||| ((((u8 (((v4 >>> 4) &&& 0xff))))) <<< 4) ||| ((((u8 (((((v4) &&& 0xf) <<< 4) ||| ((v5 >>> 40) &&& 0xf)))) >>> 4) &&& 0xf)) = v4 := by
  rw [step_top v4 44 36 rfl hv]
  rw [step_mid v4 36 28 rfl]
  rw [step_mid v4 28 20 rfl]
  rw [step_mid v4 20 12 rfl]
  rw [step_mid v4 12 4 rfl]
  rw [step_last v4 (((v5 >>> 40) &&& 0xf)) 4 4 15 rfl rfl
    (Nat.and_lt_two_pow _ (by norm_num))]

theorem upb44_c5 (v4 v5 : Nat) (hv : v5 < 2 ^ 44) :
    (((((u8 (((((v4) &&& 0xf) <<< 4) ||| ((v5 >>> 40) &&& 0xf))))) &&& 0xf)) <<< 40) ||| ((((u8 (((v5 >>> 32) &&& 0xff))))) <<< 32) ||| ((((u8 (((v5 >>> 24) &&& 0xff))))) <<< 24) ||| ((((u8 (((v5 >>> 16) &&& 0xff))))) <<< 16) ||| ((((u8 (((v5 >>> 8) &&& 0xff))))) <<< 8) ||| (((u8 (((v5) &&& 0xff))))) = v5 := by
  rw [step_first (((v4) &&& 0xf)) v5 44 40 4 15 rfl rfl (by norm_num) hv]
  rw [step_mid v5 40 32 rfl]
  rw [step_mid v5 32 24 rfl]
  rw [step_mid v5 24 16 rfl]
  rw [step_mid v5 16 8 rfl]
  rw [step_low v5]

theorem upb44_c6 (v6 v7 : Nat) (hv : v6 < 2 ^ 44) :
    ((((u8 (((v6 >>> 36) &&& 0xff))))) <<< 36) ||| ((((u8 (((v6 >>> 28) &&& 0xff))))) <<< 28) ||| ((((u8 (((v6 >>> 20) &&& 0xff))))) <<< 20) ||| ((((u8 (((v6 >>> 12) &&& 0xff))))) <<< 12) ||| ((((u8 (((v6 >>> 4) &&& 0xff))))) <<< 4) ||| ((((u8 (((((v6) &&& 0xf) <<< 4) ||| ((v7 >>> 40) &&& 0xf)))) >>> 4) &&& 0xf)) = v6 := by
  rw [step_top v6 44 36 rfl hv]
  rw [step_mid v6 36 28 rfl]
  rw [step_mid v6 28 20 rfl]
  rw [step_mid v6 20 12 rfl]
  rw [step_mid v6 12 4 rfl]
  rw [step_last v6 (((v7 >>> 40) &&& 0xf)) 4 4 15 rfl rfl
    (Nat.and_lt_two_pow _ (by norm_num))]

theorem upb44_c7 (v6 v7 : Nat) (hv : v7 < 2 ^ 44) :
    (((((u8 (((((v6) &&& 0xf) <<< 4) ||| ((v7 >>> 40) &&& 0xf))))) &&& 0xf)) <<< 40) ||| ((((u8 (((v7 >>> 32) &&& 0xff))))) <<< 32) ||| ((((u8 (((v7 >>> 24) &&& 0xff))))) <<< 24) ||| ((((u8 (((v7 >>> 16) &&& 0xff))))) <<< 16) ||| ((((u8 (((v7 >>> 8) &&& 0xff))))) <<< 8) ||| (((u8 (((v7) &&& 0xff))))) = v7 := by
  rw [step_first (((v6) &&& 0xf)) v7 44 40 4 15 rfl rfl (by norm_num) hv]
  rw [step_mid v7 40 32 rfl]
  rw [step_mid v7 32 24 rfl]
  rw [step_mid v7 24 16 rfl]
  rw [step_mid v7 16 8 rfl]
  rw [step_low v7]

theorem unpack_pack_bits_44 (v0 v1 v2 v3 v4 v5 v6 v7 : Nat)
    (h0 : v0 < 2 ^ 44) (h1 : v1 < 2 ^ 44) (h2 : v2 < 2 ^ 44) (h3 : v3 < 2 ^ 44) (h4 : v4 < 2 ^ 44) (h5 : v5 < 2 ^ 44) (h6 : v6 < 2 ^ 44) (h7 : v7 < 2 ^ 44) :
    unpack_bits_44 (pack_bits_44 v0 v1 v2 v3 v4 v5 v6 v7) =
      [v0, v1, v2, v3, v4, v5, v6, v7] := by
  have key : unpack_bits_44 (pack_bits_44 v0 v1 v2 v3 v4 v5 v6 v7) =
      [ ((((u8 (((v0 >>> 36) &&& 0xff))))) <<< 36) ||| ((((u8 (((v0 >>> 28) &&& 0xff))))) <<< 28) ||| ((((u8 (((v0 >>> 20) &&& 0xff))))) <<< 20) ||| ((((u8 (((v0 >>> 12) &&& 0xff))))) <<< 12) ||| ((((u8 (((v0 >>> 4) &&& 0xff))))) <<< 4) ||| ((((u8 (((((v0) &&& 0xf) <<< 4) ||| ((v1 >>> 40) &&& 0xf)))) >>> 4) &&& 0xf)),
        (((((u8 (((((v0) &&& 0xf) <<< 4) ||| ((v1 >>> 40) &&& 0xf))))) &&& 0xf)) <<< 40) ||| ((((u8 (((v1 >>> 32) &&& 0xff))))) <<< 32) ||| ((((u8 (((v1 >>> 24) &&& 0xff))))) <<< 24) ||| ((((u8 (((v1 >>> 16) &&& 0xff))))) <<< 16) ||| ((((u8 (((v1 >>> 8) &&& 0xff))))) <<< 8) ||| (((u8 (((v1) &&& 0xff))))),
        ((((u8 (((v2 >>> 36) &&& 0xff))))) <<< 36) ||| ((((u8 (((v2 >>> 28) &&& 0xff))))) <<< 28) ||| ((((u8 (((v2 >>> 20) &&& 0xff))))) <<< 20) ||| ((((u8 (((v2 >>> 12) &&& 0xff))))) <<< 12) ||| ((((u8 (((v2 >>> 4) &&& 0xff))))) <<< 4) ||| ((((u8 (((((v2) &&& 0xf) <<< 4) ||| ((v3 >>> 40) &&& 0xf)))) >>> 4) &&& 0xf)),
        (((((u8 (((((v2) &&& 0xf) <<< 4) ||| ((v3 >>> 40) &&& 0xf))))) &&& 0xf)) <<< 40) ||| ((((u8 (((v3 >>> 32) &&& 0xff))))) <<< 32) ||| ((((u8 (((v3 >>> 24) &&& 0xff))))) <<< 24) ||| ((((u8 (((v3 >>> 16) &&& 0xff))))) <<< 16) ||| ((((u8 (((v3 >>> 8) &&& 0xff))))) <<< 8) ||| (((u8 (((v3) &&& 0xff))))),
        ((((u8 (((v4 >>> 36) &&& 0xff))))) <<< 36) ||| ((((u8 (((v4 >>> 28) &&& 0xff))))) <<< 28) ||| ((((u8 (((v4 >>> 20) &&& 0xff))))) <<< 20) ||| ((((u8 (((v4 >>> 12) &&& 0xff))))) <<< 12) ||| ((((u8 (((v4 >>> 4) &&& 0xff))))) <<< 4) ||| ((((u8 (((((v4) &&& 0xf) <<< 4) ||| ((v5 >>> 40) &&& 0xf)))) >>> 4) &&& 0xf)),
        (((((u8 (((((v4) &&& 0xf) <<< 4) ||| ((v5 >>> 40) &&& 0xf))))) &&& 0xf)) <<< 40) ||| ((((u8 (((v5 >>> 32) &&& 0xff))))) <<< 32) ||| ((((u8 (((v5 >>> 24) &&& 0xff))))) <<< 24) ||| ((((u8 (((v5 >>> 16) &&& 0xff))))) <<< 16) ||| ((((u8 (((v5 >>> 8) &&& 0xff))))) <<< 8) ||| (((u8 (((v5) &&& 0xff))))),
        ((((u8 (((v6 >>> 36) &&& 0xff))))) <<< 36) ||| ((((u8 (((v6 >>> 28) &&& 0xff))))) <<< 28) ||| ((((u8 (((v6 >>> 20) &&& 0xff))))) <<< 20) ||| ((((u8 (((v6 >>> 12) &&& 0xff))))) <<< 12) ||| ((((u8 (((v6 >>> 4) &&& 0xff))))) <<< 4) ||| ((((u8 (((((v6) &&& 0xf) <<< 4) ||| ((v7 >>> 40) &&& 0xf)))) >>> 4) &&& 0xf)),
        (((((u8 (((((v6) &&& 0xf) <<< 4) ||| ((v7 >>> 40) &&& 0xf))))) &&& 0xf)) <<< 40) ||| ((((u8 (((v7 >>> 32) &&& 0xff))))) <<< 32) ||| ((((u8 (((v7 >>> 24) &&& 0xff))))) <<< 24) ||| ((((u8 (((v7 >>> 16) &&& 0xff))))) <<< 16) ||| ((((u8 (((v7 >>> 8) &&& 0xff))))) <<< 8) ||| (((u8 (((v7) &&& 0xff))))) ] := rfl
  rw [key]
  rw [upb44_c0 v0 v1 h0,
    upb44_c1 v0 v1 h1,
    upb44_c2 v2 v3 h2,
    upb44_c3 v2 v3 h3,
    upb44_c4 v4 v5 h4,
    upb44_c5 v4 v5 h5,
    upb44_c6 v6 v7 h6,
    upb44_c7 v6 v7 h7]

theorem upb45_c0 (v0 v1 : Nat) (hv : v0 < 2 ^ 45) :
    ((((u8 (((v0 >>> 37) &&& 0xff))))) <<< 37) ||| ((((u8 (((v0 >>> 29) &&& 0xff))))) <<< 29) ||| ((((u8 (((v0 >>> 21) &&& 0xff))))) <<< 21) ||| ((((u8 (((v0 >>> 13) &&& 0xff))))) <<< 13) ||| ((((u8 (((v0 >>> 5) &&& 0xff))))) <<< 5) ||| ((((u8 (((((v0) &&& 0x1f) <<< 3) ||| ((v1 >>> 42) &&& 0x7)))) >>> 3) &&& 0x1f)) = v0 := by
  rw [step_top v0 45 37 rfl hv]
  rw [step_mid v0 37 29 rfl]
  rw [step_mid v0 29 21 rfl]
  rw [step_mid v0 21 13 rfl]
  rw [step_mid v0 13 5 rfl]
  rw [step_last v0 (((v1 >>> 42) &&& 0x7)) 3 5 31 rfl rfl
    (Nat.and_lt_two_pow _ (by norm_num))]

theorem upb45_c1 (v0 v1 v2 : Nat) (hv : v1 < 2 ^ 45) :
    (((((u8 (((((v0) &&& 0x1f) <<< 3) ||| ((v1 >>> 42) &&& 0x7))))) &&& 0x7)) <<< 42) ||| ((((u8 (((v1 >>> 34) &&& 0xff))))) <<< 34) ||| ((((u8 (((v1 >>> 26) &&& 0xff))))) <<< 26) ||| ((((u8 (((v1 >>> 18) &&& 0xff))))) <<< 18) ||| ((((u8 (((v1 >>> 10) &&& 0xff))))) <<< 10) ||| ((((u8 (((v1 >>> 2) &&& 0xff))))) <<< 2) ||| ((((u8 (((((v1) &&& 0x3) <<< 6) ||| ((v2 >>> 39) &&& 0x3f)))) >>> 6) &&& 0x3)) = v1 := by
  rw [step_first (((v0) &&& 0x1f)) v1 45 42 3 7 rfl rfl (by norm_num) hv]
  rw [step_mid v1 42 34 rfl]
  rw [step_mid v1 34 26 rfl]
  rw [step_mid v1 26 18 rfl]
  rw [step_mid v1 18 10 rfl]
  rw [step_mid v1 10 2 rfl]
  rw [step_last v1 (((v2 >>> 39) &&& 0x3f)) 6 2 3 rfl rfl
    (Nat.and_lt_two_pow _ (by norm_num))]

theorem upb45_c2 (v1 v2 v3 : Nat) (hv : v2 < 2 ^ 45) :
    (((((u8 (((((v1) &&& 0x3) <<< 6) ||| ((v2 >>> 39) &&& 0x3f))))) &&& 0x3f)) <<< 39) ||| ((((u8 (((v2 >>> 31) &&& 0xff))))) <<< 31) ||| ((((u8 (((v2 >>> 23) &&& 0xff))))) <<< 23) ||| ((((u8 (((v2 >>> 15) &&& 0xff))))) <<< 15) ||| ((((u8 (((v2 >>> 7) &&& 0xff))))) <<< 7) ||| ((((u8 (((((v2) &&& 0x7f) <<< 1) ||| ((v3 >>> 44) &&& 0x1)))) >>> 1) &&& 0x7f)) = v2 := by
  rw [step_first (((v1) &&& 0x3)) v2 45 39 6 63 rfl rfl (by norm_num) hv]
  rw [step_mid v2 39 31 rfl]
  rw [step_mid v2 31 23 rfl]
  rw [step_mid v2 23 15 rfl]
  rw [step_mid v2 15 7 rfl]
  rw [step_last v2 (((v3 >>> 44) &&& 0x1)) 1 7 127 rfl rfl
    (Nat.and_lt_two_pow _ (by norm_num))]

theorem upb45_c3 (v2 v3 v4 : Nat) (hv : v3 < 2 ^ 45) :
    (((((u8 (((((v2) &&& 0x7f) <<< 1) ||| ((v3 >>> 44) &&& 0x1))))) &&& 0x1)) <<< 44) ||| ((((u8 (((v3 >>> 36) &&& 0xff))))) <<< 36) ||| ((((u8 (((v3 >>> 28) &&& 0xff))))) <<< 28) ||| ((((u8 (((v3 >>> 20) &&& 0xff))))) <<< 20) ||| ((((u8 (((v3 >>> 12) &&& 0xff))))) <<< 12) ||| ((((u8 (((v3 >>> 4) &&& 0xff))))) <<< 4) ||| ((((u8 (((((v3) &&& 0xf) <<< 4) ||| ((v4 >>> 41) &&& 0xf)))) >>> 4) &&& 0xf)) = v3 := by
  rw [step_first (((v2) &&& 0x7f)) v3 45 44 1 1 rfl rfl (by norm_num) hv]
  rw [step_mid v3 44 36 rfl]
  rw [step_mid v3 36 28 rfl]
  rw [step_mid v3 28 20 rfl]
  rw [step_mid v3 20 12 rfl]
  rw [step_mid v3 12 4 rfl]
  rw [step_last v3 (((v4 >>> 41) &&& 0xf)) 4 4 15 rfl rfl
    (Nat.and_lt_two_pow _ (by norm_num))]

theorem upb45_c4 (v3 v4 v5 : Nat) (hv : v4 < 2 ^ 45) :
    (((((u8 (((((v3) &&& 0xf) <<< 4) ||| ((v4 >>> 41) &&& 0xf))))) &&& 0xf)) <<< 41) ||| ((((u8 (((v4 >>> 33) &&& 0xff))))) <<< 33) ||| ((((u8 (((v4 >>> 25) &&& 0xff))))) <<< 25) ||| ((((u8 (((v4 >>> 17) &&& 0xff))))) <<< 17) ||| ((((u8 (((v4 >>> 9) &&& 0xff))))) <<< 9) ||| ((((u8 (((v4 >>> 1) &&& 0xff))))) <<< 1) ||| ((((u8 (((((v4) &&& 0x1) <<< 7) ||| ((v5 >>> 38) &&& 0x7f)))) >>> 7) &&& 0x1)) = v4 := by
  rw [step_first (((v3) &&& 0xf)) v4 45 41 4 15 rfl rfl (by norm_num) hv]
  rw [step_mid v4 41 33 rfl]
  rw [step_mid v4 33 25 rfl]
  rw [step_mid v4 25 17 rfl]
  rw [step_mid v4 17 9 rfl]
  rw [step_mid v4 9 1 rfl]
  rw [step_last v4 (((v5 >>> 38) &&& 0x7f)) 7 1 1 rfl rfl
    (Nat.and_lt_two_pow _ (by norm_num))]

theorem upb45_c5 (v4 v5 v6 : Nat) (hv : v5 < 2 ^ 45) :
    (((((u8 (((((v4) &&& 0x1) <<< 7) ||| ((v5 >>> 38) &&& 0x7f))))) &&& 0x7f)) <<< 38) ||| ((((u8 (((v5 >>> 30) &&& 0xff))))) <<< 30) ||| ((((u8 (((v5 >>> 22) &&& 0xff))))) <<< 22) ||| ((((u8 (((v5 >>> 14) &&& 0xff))))) <<< 14) ||| ((((u8 (((v5 >>> 6) &&& 0xff))))) <<< 6) ||| ((((u8 (((((v5) &&& 0x3f) <<< 2) ||| ((v6 >>> 43) &&& 0x3)))) >>> 2) &&& 0x3f)) = v5 := by
  rw [step_first (((v4) &&& 0x1)) v5 45 38 7 127 rfl rfl (by norm_num) hv]
  rw [step_mid v5 38 30 rfl]
  rw [step_mid v5 30 22 rfl]
  rw [step_mid v5 22 14 rfl]
  rw [step_mid v5 14 6 rfl]
  rw [step_last v5 (((v6 >>> 43) &&& 0x3)) 2 6 63 rfl rfl
    (Nat.and_lt_two_pow _ (by norm_num))]

theorem upb45_c6 (v5 v6 v7 : Nat) (hv : v6 < 2 ^ 45) :
    (((((u8 (((((v5) &&& 0x3f) <<< 2) ||| ((v6 >>> 43) &&& 0x3))))) &&& 0x3)) <<< 43) ||| ((((u8 (((v6 >>> 35) &&& 0xff))))) <<< 35) ||| ((((u8 (((v6 >>> 27) &&& 0xff))))) <<< 27) ||| ((((u8 (((v6 >>> 19) &&& 0xff))))) <<< 19) ||| ((((u8 (((v6 >>> 11) &&& 0xff))))) <<< 11) ||| ((((u8 (((v6 >>> 3) &&& 0xff))))) <<< 3) ||| ((((u8 (((((v6) &&& 0x7) <<< 5) ||| ((v7 >>> 40) &&& 0x1f)))) >>> 5) &&& 0x7)) = v6 := by
  rw [step_first (((v5) &&& 0x3f)) v6 45 43 2 3 rfl rfl (by norm_num) hv]
  rw [step_mid v6 43 35 rfl]
  rw [step_mid v6 35 27 rfl]
  rw [step_mid v6 27 19 rfl]
  rw [step_mid v6 19 11 rfl]
  rw [step_mid v6 11 3 rfl]
  rw [step_last v6 (((v7 >>> 40) &&& 0x1f)) 5 3 7 rfl rfl
    (Nat.and_lt_two_pow _ (by norm_num))]

theorem upb45_c7 (v6 v7 : Nat) (hv : v7 < 2 ^ 45) :
    (((((u8 (((((v6) &&& 0x7) <<< 5) ||| ((v7 >>> 40) &&& 0x1f))))) &&& 0x1f)) <<< 40) ||| ((((u8 (((v7 >>> 32) &&& 0xff))))) <<< 32) ||| ((((u8 (((v7 >>> 24) &&& 0xff))))) <<< 24) ||| ((((u8 (((v7 >>> 16) &&& 0xff))))) <<< 16) ||| ((((u8 (((v7 >>> 8) &&& 0xff))))) <<< 8) ||| (((u8 (((v7) &&& 0xff))))) = v7 := by
  rw [step_first (((v6) &&& 0x7)) v7 45 40 5 31 rfl rfl (by norm_num) hv]
  rw [step_mid v7 40 32 rfl]
  rw [step_mid v7 32 24 rfl]
  rw [step_mid v7 24 16 rfl]
  rw [step_mid v7 16 8 rfl]
  rw [step_low v7]

theorem unpack_pack_bits_45 (v0 v1 v2 v3 v4 v5 v6 v7 : Nat)
    (h0 : v0 < 2 ^ 45) (h1 : v1 < 2 ^ 45) (h2 : v2 < 2 ^ 45) (h3 : v3 < 2 ^ 45) (h4 : v4 < 2 ^ 45) (h5 : v5 < 2 ^ 45) (h6 : v6 < 2 ^ 45) (h7 : v7 < 2 ^ 45) :
    unpack_bits_45 (pack_bits_45 v0 v1 v2 v3 v4 v5 v6 v7) =
      [v0, v1, v2, v3, v4, v5, v6, v7] := by
  have key : unpack_bits_45 (pack_bits_45 v0 v1 v2 v3 v4 v5 v6 v7) =
      [ ((((u8 (((v0 >>> 37) &&& 0xff))))) <<< 37) ||| ((((u8 (((v0 >>> 29) &&& 0xff))))) <<< 29) ||| ((((u8 (((v0 >>> 21) &&& 0xff))))) <<< 21) ||| ((((u8 (((v0 >>> 13) &&& 0xff))))) <<< 13) ||| ((((u8 (((v0 >>> 5) &&& 0xff))))) <<< 5) ||| ((((u8 (((((v0) &&& 0x1f) <<< 3) ||| ((v1 >>> 42) &&& 0x7)))) >>> 3) &&& 0x1f)),
        (((((u8 (((((v0) &&& 0x1f) <<< 3) ||| ((v1 >>> 42) &&& 0x7))))) &&& 0x7)) <<< 42) ||| ((((u8 (((v1 >>> 34) &&& 0xff))))) <<< 34) ||| ((((u8 (((v1 >>> 26) &&& 0xff))))) <<< 26) ||| ((((u8 (((v1 >>> 18) &&& 0xff))))) <<< 18) ||| ((((u8 (((v1 >>> 10) &&& 0xff))))) <<< 10) ||| ((((u8 (((v1 >>> 2) &&& 0xff))))) <<< 2) ||| ((((u8 (((((v1) &&& 0x3) <<< 6) ||| ((v2 >>> 39) &&& 0x3f)))) >>> 6) &&& 0x3)),
        (((((u8 (((((v1) &&& 0x3) <<< 6) ||| ((v2 >>> 39) &&& 0x3f))))) &&& 0x3f)) <<< 39) ||| ((((u8 (((v2 >>> 31) &&& 0xff))))) <<< 31) ||| ((((u8 (((v2 >>> 23) &&& 0xff))))) <<< 23) ||| ((((u8 (((v2 >>> 15) &&& 0xff))))) <<< 15) ||| ((((u8 (((v2 >>> 7) &&& 0xff))))) <<< 7) ||| ((((u8 (((((v2) &&& 0x7f) <<< 1) ||| ((v3 >>> 44) &&& 0x1)))) >>> 1) &&& 0x7f)),
        (((((u8 (((((v2) &&& 0x7f) <<< 1) ||| ((v3 >>> 44) &&& 0x1))))) &&& 0x1)) <<< 44) ||| ((((u8 (((v3 >>> 36) &&& 0xff))))) <<< 36) ||| ((((u8 (((v3 >>> 28) &&& 0xff))))) <<< 28) ||| ((((u8 (((v3 >>> 20) &&& 0xff))))) <<< 20) ||| ((((u8 (((v3 >>> 12) &&& 0xff))))) <<< 12) ||| ((((u8 (((v3 >>> 4) &&& 0xff))))) <<< 4) ||| ((((u8 (((((v3) &&& 0xf) <<< 4) ||| ((v4 >>> 41) &&& 0xf)))) >>> 4) &&& 0xf)),
        (((((u8 (((((v3) &&& 0xf) <<< 4) ||| ((v4 >>> 41) &&& 0xf))))) &&& 0xf)) <<< 41) ||| ((((u8 (((v4 >>> 33) &&& 0xff))))) <<< 33) ||| ((((u8 (((v4 >>> 25) &&& 0xff))))) <<< 25) ||| ((((u8 (((v4 >>> 17) &&& 0xff))))) <<< 17) ||| ((((u8 (((v4 >>> 9) &&& 0xff))))) <<< 9) ||| ((((u8 (((v4 >>> 1) &&& 0xff))))) <<< 1) ||| ((((u8 (((((v4) &&& 0x1) <<< 7) ||| ((v5 >>> 38) &&& 0x7f)))) >>> 7) &&& 0x1)),
        (((((u8 (((((v4) &&& 0x1) <<< 7) ||| ((v5 >>> 38) &&& 0x7f))))) &&& 0x7f)) <<< 38) ||| ((((u8 (((v5 >>> 30) &&& 0xff))))) <<< 30) ||| ((((u8 (((v5 >>> 22) &&& 0xff))))) <<< 22) ||| ((((u8 (((v5 >>> 14) &&& 0xff))))) <<< 14) ||| ((((u8 (((v5 >>> 6) &&& 0xff))))) <<< 6) ||| ((((u8 (((((v5) &&& 0x3f) <<< 2) ||| ((v6 >>> 43) &&& 0x3)))) >>> 2) &&& 0x3f)),
        (((((u8 (((((v5) &&& 0x3f) <<< 2) ||| ((v6 >>> 43) &&& 0x3))))) &&& 0x3)) <<< 43) ||| ((((u8 (((v6 >>> 35) &&& 0xff))))) <<< 35) ||| ((((u8 (((v6 >>> 27) &&& 0xff))))) <<< 27) ||| ((((u8 (((v6 >>> 19) &&& 0xff))))) <<< 19) ||| ((((u8 (((v6 >>> 11) &&& 0xff))))) <<< 11) ||| ((((u8 (((v6 >>> 3) &&& 0xff))))) <<< 3) ||| ((((u8 (((((v6) &&& 0x7) <<< 5) ||| ((v7 >>> 40) &&& 0x1f)))) >>> 5) &&& 0x7)),
        (((((u8 (((((v6) &&& 0x7) <<< 5) ||| ((v7 >>> 40) &&& 0x1f))))) &&& 0x1f)) <<< 40) ||| ((((u8 (((v7 >>> 32) &&& 0xff))))) <<< 32) ||| ((((u8 (((v7 >>> 24) &&& 0xff))))) <<< 24) ||| ((((u8 (((v7 >>> 16) &&& 0xff))))) <<< 16) ||| ((((u8 (((v7 >>> 8) &&& 0xff))))) <<< 8) ||| (((u8 (((v7) &&& 0xff))))) ] := rfl
  rw [key]
  rw [upb45_c0 v0 v1 h0,
    upb45_c1 v0 v1 v2 h1,
    upb45_c2 v1 v2 v3 h2,
    upb45_c3 v2 v3 v4 h3,
    upb45_c4 v3 v4 v5 h4,
    upb45_c5 v4 v5 v6 h5,
    upb45_c6 v5 v6 v7 h6,
    upb45_c7 v6 v7 h7]

theorem upb46_c0 (v0 v1 : Nat) (hv : v0 < 2 ^ 46) :
    ((((u8 (((v0 >>> 38) &&& 0xff))))) <<< 38) ||| ((((u8 (((v0 >>> 30) &&& 0xff))))) <<< 30) ||| ((((u8 (((v0 >>> 22) &&& 0xff))))) <<< 22) ||| ((((u8 (((v0 >>> 14) &&& 0xff))))) <<< 14) ||| ((((u8 (((v0 >>> 6) &&& 0xff))))) <<< 6) ||| ((((u8 (((((v0) &&& 0x3f) <<< 2) ||| ((v1 >>> 44) &&& 0x3)))) >>> 2) &&& 0x3f)) = v0 := by
  rw [step_top v0 46 38 rfl hv]
  rw [step_mid v0 38 30 rfl]
  rw [step_mid v0 30 22 rfl]
  rw [step_mid v0 22 14 rfl]
  rw [step_mid v0 14 6 rfl]
  rw [step_last v0 (((v1 >>> 44) &&& 0x3)) 2 6 63 rfl rfl
    (Nat.and_lt_two_pow _ (by norm_num))]

theorem upb46_c1 (v0 v1 v2 : Nat) (hv : v1 < 2 ^ 46) :
    (((((u8 (((((v0) &&& 0x3f) <<< 2) ||| ((v1 >>> 44) &&& 0x3))))) &&& 0x3)) <<< 44) ||| ((((u8 (((v1 >>> 36) &&& 0xff))))) <<< 36) ||| ((((u8 (((v1 >>> 28) &&& 0xff))))) <<< 28) ||| ((((u8 (((v1 >>> 20) &&& 0xff))))) <<< 20) ||| ((((u8 (((v1 >>> 12) &&& 0xff))))) <<< 12) ||| ((((u8 (((v1 >>> 4) &&& 0xff))))) <<< 4) ||| ((((u8 (((((v1) &&& 0xf) <<< 4) ||| ((v2 >>> 42) &&& 0xf)))) >>> 4) &&& 0xf)) = v1 := by
  rw [step_first (((v0) &&& 0x3f)) v1 46 44 2 3 rfl rfl (by norm_num) hv]
  rw [step_mid v1 44 36 rfl]
  rw [step_mid v1 36 28 rfl]
  rw [step_mid v1 28 20 rfl]
  rw [step_mid v1 20 12 rfl]
  rw [step_mid v1 12 4 rfl]
  rw [step_last v1 (((v2 >>> 42) &&& 0xf)) 4 4 15 rfl rfl
    (Nat.and_lt_two_pow _ (by norm_num))]

theorem upb46_c2 (v1 v2 v3 : Nat) (hv : v2 < 2 ^ 46) :
    (((((u8 (((((v1) &&& 0xf) <<< 4) ||| ((v2 >>> 42) &&& 0xf))))) &&& 0xf)) <<< 42) ||| ((((u8 (((v2 >>> 34) &&& 0xff))))) <<< 34) ||| ((((u8 (((v2 >>> 26) &&& 0xff))))) <<< 26) ||| ((((u8 (((v2 >>> 18) &&& 0xff))))) <<< 18) ||| ((((u8 (((v2 >>> 10) &&& 0xff))))) <<< 10) ||| ((((u8 (((v2 >>> 2) &&& 0xff))))) <<< 2) ||| ((((u8 (((((v2) &&& 0x3) <<< 6) ||| ((v3 >>> 40) &&& 0x3f)))) >>> 6) &&& 0x3)) = v2 := by
  rw [step_first (((v1) &&& 0xf)) v2 46 42 4 15 rfl rfl (by norm_num) hv]
  rw [step_mid v2 42 34 rfl]
  rw [step_mid v2 34 26 rfl]
  rw [step_mid v2 26 18 rfl]
  rw [step_mid v2 18 10 rfl]
  rw [step_mid v2 10 2 rfl]
  rw [step_last v2 (((v3 >>> 40) &&& 0x3f)) 6 2 3 rfl rfl
    (Nat.and_lt_two_pow _ (by norm_num))]

theorem upb46_c3 (v2 v3 : Nat) (hv : v3 < 2 ^ 46) :
    (((((u8 (((((v2) &&& 0x3) <<< 6) ||| ((v3 >>> 40) &&& 0x3f))))) &&& 0x3f)) <<< 40) ||| ((((u8 (((v3 >>> 32) &&& 0xff))))) <<< 32) ||| ((((u8 (((v3 >>> 24) &&& 0xff))))) <<< 24) ||| ((((u8 (((v3 >>> 16) &&& 0xff))))) <<< 16) ||| ((((u8 (((v3 >>> 8) &&& 0xff))))) <<< 8) ||| (((u8 (((v3) &&& 0xff))))) = v3 := by
  rw [step_first (((v2) &&& 0x3)) v3 46 40 6 63 rfl rfl (by norm_num) hv]
  rw [step_mid v3 40 32 rfl]
  rw [step_mid v3 32 24 rfl]
  rw [step_mid v3 24 16 rfl]
  rw [step_mid v3 16 8 rfl]
  rw [step_low v3]

theorem upb46_c4 (v4 v5 : Nat) (hv : v4 < 2 ^ 46) :
    ((((u8 (((v4 >>> 38) &&& 0xff))))) <<< 38) ||| ((((u8 (((v4 >>> 30) &&& 0xff))))) <<< 30) ||| ((((u8 (((v4 >>> 22) &&& 0xff))))) <<< 22) ||| ((((u8 (((v4 >>> 14) &&& 0xff))))) <<< 14) ||| ((((u8 (((v4 >>> 6) &&& 0xff))))) <<< 6) ||| ((((u8 (((((v4) &&& 0x3f) <<< 2) ||| ((v5 >>> 44) &&& 0x3)))) >>> 2) &&& 0x3f)) = v4 := by
  rw [step_top v4 46 38 rfl hv]
  rw [step_mid v4 38 30 rfl]
  rw [step_mid v4 30 22 rfl]
  rw [step_mid v4 22 14 rfl]
  rw [step_mid v4 14 6 rfl]
  rw [step_last v4 (((v5 >>> 44) &&& 0x3)) 2 6 63 rfl rfl
    (Nat.and_lt_two_pow _ (by norm_num))]

theorem upb46_c5 (v4 v5 v6 : Nat) (hv : v5 < 2 ^ 46) :
    (((((u8 (((((v4) &&& 0x3f) <<< 2) ||| ((v5 >>> 44) &&& 0x3))))) &&& 0x3)) <<< 44) ||| ((((u8 (((v5 >>> 36) &&& 0xff))))) <<< 36) ||| ((((u8 (((v5 >>> 28) &&& 0xff))))) <<< 28) ||| ((((u8 (((v5 >>> 20) &&& 0xff))))) <<< 20) ||| ((((u8 (((v5 >>> 12) &&& 0xff))))) <<< 12) ||| ((((u8 (((v5 >>> 4) &&& 0xff))))) <<< 4) ||| ((((u8 (((((v5) &&& 0xf) <<< 4) ||| ((v6 >>> 42) &&& 0xf)))) >>> 4) &&& 0xf)) = v5 := by
  rw [step_first (((v4) &&& 0x3f)) v5 46 44 2 3 rfl rfl (by norm_num) hv]
  rw [step_mid v5 44 36 rfl]
  rw [step_mid v5 36 28 rfl]
  rw [step_mid v5 28 20 rfl]
  rw [step_mid v5 20 12 rfl]
  rw [step_mid v5 12 4 rfl]
  rw [step_last v5 (((v6 >>> 42) &&& 0xf)) 4 4 15 rfl rfl
    (Nat.and_lt_two_pow _ (by norm_num))]

theorem upb46_c6 (v5 v6 v7 : Nat) (hv : v6 < 2 ^ 46) :
    (((((u8 (((((v5) &&& 0xf) <<< 4) ||| ((v6 >>> 42) &&& 0xf))))) &&& 0xf)) <<< 42) ||| ((((u8 (((v6 >>> 34) &&& 0xff))))) <<< 34) ||| ((((u8 (((v6 >>> 26) &&& 0xff))))) <<< 26) ||| ((((u8 (((v6 >>> 18) &&& 0xff))))) <<< 18) ||| ((((u8 (((v6 >>> 10) &&& 0xff))))) <<< 10) ||| ((((u8 (((v6 >>> 2) &&& 0xff))))) <<< 2) ||| ((((u8 (((((v6) &&& 0x3) <<< 6) ||| ((v7 >>> 40) &&& 0x3f)))) >>> 6) &&& 0x3)) = v6 := by
  rw [step_first (((v5) &&& 0xf)) v6 46 42 4 15 rfl rfl (by norm_num) hv]
  rw [step_mid v6 42 34 rfl]
  rw [step_mid v6 34 26 rfl]
  rw [step_mid v6 26 18 rfl]
  rw [step_mid v6 18 10 rfl]
  rw [step_mid v6 10 2 rfl]
  rw [step_last v6 (((v7 >>> 40) &&& 0x3f)) 6 2 3 rfl rfl
    (Nat.and_lt_two_pow _ (by norm_num))]

theorem upb46_c7 (v6 v7 : Nat) (hv : v7 < 2 ^ 46) :
    (((((u8 (((((v6) &&& 0x3) <<< 6) ||| ((v7 >>> 40) &&& 0x3f))))) &&& 0x3f)) <<< 40) ||| ((((u8 (((v7 >>> 32) &&& 0xff))))) <<< 32) ||| ((((u8 (((v7 >>> 24) &&& 0xff))))) <<< 24) ||| ((((u8 (((v7 >>> 16) &&& 0xff))))) <<< 16) ||| ((((u8 (((v7 >>> 8) &&& 0xff))))) <<< 8) ||| (((u8 (((v7) &&& 0xff))))) = v7 := by
  rw [step_first (((v6) &&& 0x3)) v7 46 40 6 63 rfl rfl (by norm_num) hv]
  rw [step_mid v7 40 32 rfl]
  rw [step_mid v7 32 24 rfl]
  rw [step_mid v7 24 16 rfl]
  rw [step_mid v7 16 8 rfl]
  rw [step_low v7]

theorem unpack_pack_bits_46 (v0 v1 v2 v3 v4 v5 v6 v7 : Nat)
    (h0 : v0 < 2 ^ 46) (h1 : v1 < 2 ^ 46) (h2 : v2 < 2 ^ 46) (h3 : v3 < 2 ^ 46) (h4 : v4 < 2 ^ 46) (h5 : v5 < 2 ^ 46) (h6 : v6 < 2 ^ 46) (h7 : v7 < 2 ^ 46) :
    unpack_bits_46 (pack_bits_46 v0 v1 v2 v3 v4 v5 v6 v7) =
      [v0, v1, v2, v3, v4, v5, v6, v7] := by
  have key : unpack_bits_46 (pack_bits_46 v0 v1 v2 v3 v4 v5 v6 v7) =
      [ ((((u8 (((v0 >>> 38) &&& 0xff))))) <<< 38) ||| ((((u8 (((v0 >>> 30) &&& 0xff))))) <<< 30) ||| ((((u8 (((v0 >>> 22) &&& 0xff))))) <<< 22) ||| ((((u8 (((v0 >>> 14) &&& 0xff))))) <<< 14) ||| ((((u8 (((v0 >>> 6) &&& 0xff))))) <<< 6) ||| ((((u8 (((((v0) &&& 0x3f) <<< 2) ||| ((v1 >>> 44) &&& 0x3)))) >>> 2) &&& 0x3f)),
        (((((u8 (((((v0) &&& 0x3f) <<< 2) ||| ((v1 >>> 44) &&& 0x3))))) &&& 0x3)) <<< 44) ||| ((((u8 (((v1 >>> 36) &&& 0xff))))) <<< 36) ||| ((((u8 (((v1 >>> 28) &&& 0xff))))) <<< 28) ||| ((((u8 (((v1 >>> 20) &&& 0xff))))) <<< 20) ||| ((((u8 (((v1 >>> 12) &&& 0xff))))) <<< 12) ||| ((((u8 (((v1 >>> 4) &&& 0xff))))) <<< 4) ||| ((((u8 (((((v1) &&& 0xf) <<< 4) ||| ((v2 >>> 42) &&& 0xf)))) >>> 4) &&& 0xf)),
        (((((u8 (((((v1) &&& 0xf) <<< 4) ||| ((v2 >>> 42) &&& 0xf))))) &&& 0xf)) <<< 42) ||| ((((u8 (((v2 >>> 34) &&& 0xff))))) <<< 34) ||| ((((u8 (((v2 >>> 26) &&& 0xff))))) <<< 26) ||| ((((u8 (((v2 >>> 18) &&& 0xff))))) <<< 18) ||| ((((u8 (((v2 >>> 10) &&& 0xff))))) <<< 10) ||| ((((u8 (((v2 >>> 2) &&& 0xff))))) <<< 2) ||| ((((u8 (((((v2) &&& 0x3) <<< 6) ||| ((v3 >>> 40) &&& 0x3f)))) >>> 6) &&& 0x3)),
        (((((u8 (((((v2) &&& 0x3) <<< 6) ||| ((v3 >>> 40) &&& 0x3f))))) &&& 0x3f)) <<< 40) ||| ((((u8 (((v3 >>> 32) &&& 0xff))))) <<< 32) ||| ((((u8 (((v3 >>> 24) &&& 0xff))))) <<< 24) ||| ((((u8 (((v3 >>> 16) &&& 0xff))))) <<< 16) ||| ((((u8 (((v3 >>> 8) &&& 0xff))))) <<< 8) ||| (((u8 (((v3) &&& 0xff))))),
        ((((u8 (((v4 >>> 38) &&& 0xff))))) <<< 38) ||| ((((u8 (((v4 >>> 30) &&& 0xff))))) <<< 30) ||| ((((u8 (((v4 >>> 22) &&& 0xff))))) <<< 22) ||| ((((u8 (((v4 >>> 14) &&& 0xff))))) <<< 14) ||| ((((u8 (((v4 >>> 6) &&& 0xff))))) <<< 6) ||| ((((u8 (((((v4) &&& 0x3f) <<< 2) ||| ((v5 >>> 44) &&& 0x3)))) >>> 2) &&& 0x3f)),
        (((((u8 (((((v4) &&& 0x3f) <<< 2) ||| ((v5 >>> 44) &&& 0x3))))) &&& 0x3)) <<< 44) ||| ((((u8 (((v5 >>> 36) &&& 0xff))))) <<< 36) ||| ((((u8 (((v5 >>> 28) &&& 0xff))))) <<< 28) ||| ((((u8 (((v5 >>> 20) &&& 0xff))))) <<< 20) ||| ((((u8 (((v5 >>> 12) &&& 0xff))))) <<< 12) ||| ((((u8 (((v5 >>> 4) &&& 0xff))))) <<< 4) ||| ((((u8 (((((v5) &&& 0xf) <<< 4) ||| ((v6 >>> 42) &&& 0xf)))) >>> 4) &&& 0xf)),
        (((((u8 (((((v5) &&& 0xf) <<< 4) ||| ((v6 >>> 42) &&& 0xf))))) &&& 0xf)) <<< 42) ||| ((((u8 (((v6 >>> 34) &&& 0xff))))) <<< 34) ||| ((((u8 (((v6 >>> 26) &&& 0xff))))) <<< 26) ||| ((((u8 (((v6 >>> 18) &&& 0xff))))) <<< 18) ||| ((((u8 (((v6 >>> 10) &&& 0xff))))) <<< 10) ||| ((((u8 (((v6 >>> 2) &&& 0xff))))) <<< 2) ||| ((((u8 (((((v6) &&& 0x3) <<< 6) ||| ((v7 >>> 40) &&& 0x3f)))) >>> 6) &&& 0x3)),
        (((((u8 (((((v6) &&& 0x3) <<< 6) ||| ((v7 >>> 40) &&& 0x3f))))) &&& 0x3f)) <<< 40) ||| ((((u8 (((v7 >>> 32) &&& 0xff))))) <<< 32) ||| ((((u8 (((v7 >>> 24) &&& 0xff))))) <<< 24) ||| ((((u8 (((v7 >>> 16) &&& 0xff))))) <<< 16) ||| ((((u8 (((v7 >>> 8) &&& 0xff))))) <<< 8) ||| (((u8 (((v7) &&& 0xff))))) ] := rfl
  rw [key]
  rw [upb46_c0 v0 v1 h0,
    upb46_c1 v0 v1 v2 h1,
    upb46_c2 v1 v2 v3 h2,
    upb46_c3 v2 v3 h3,
    upb46_c4 v4 v5 h4,
    upb46_c5 v4 v5 v6 h5,
    upb46_c6 v5 v6 v7 h6,
    upb46_c7 v6 v7 h7]

theorem upb47_c0 (v0 v1 : Nat) (hv : v0 < 2 ^ 47) :
    ((((u8 (((v0 >>> 39) &&& 0xff))))) <<< 39) ||| ((((u8 (((v0 >>> 31) &&& 0xff))))) <<< 31) ||| ((((u8 (((v0 >>> 23) &&& 0xff))))) <<< 23) ||| ((((u8 (((v0 >>> 15) &&& 0xff))))) <<< 15) ||| ((((u8 (((v0 >>> 7) &&& 0xff))))) <<< 7) ||| ((((u8 (((((v0) &&& 0x7f) <<< 1) ||| ((v1 >>> 46) &&& 0x1)))) >>> 1) &&& 0x7f)) = v0 := by
  rw [step_top v0 47 39 rfl hv]
  rw [step_mid v0 39 31 rfl]
  rw [step_mid v0 31 23 rfl]
  rw [step_mid v0 23 15 rfl]
  rw [step_mid v0 15 7 rfl]
  rw [step_last v0 (((v1 >>> 46) &&& 0x1)) 1 7 127 rfl rfl
    (Nat.and_lt_two_pow _ (by norm_num))]

theorem upb47_c1 (v0 v1 v2 : Nat) (hv : v1 < 2 ^ 47) :
    (((((u8 (((((v0) &&& 0x7f) <<< 1) ||| ((v1 >>> 46) &&& 0x1))))) &&& 0x1)) <<< 46) ||| ((((u8 (((v1 >>> 38) &&& 0xff))))) <<< 38) ||| ((((u8 (((v1 >>> 30) &&& 0xff))))) <<< 30) ||| ((((u8 (((v1 >>> 22) &&& 0xff))))) <<< 22) ||| ((((u8 (((v1 >>> 14) &&& 0xff))))) <<< 14) ||| ((((u8 (((v1 >>> 6) &&& 0xff))))) <<< 6) ||| ((((u8 (((((v1) &&& 0x3f) <<< 2) ||| ((v2 >>> 45) &&& 0x3)))) >>> 2) &&& 0x3f)) = v1 := by
  rw [step_first (((v0) &&& 0x7f)) v1 47 46 1 1 rfl rfl (by norm_num) hv]
  rw [step_mid v1 46 38 rfl]
  rw [step_mid v1 38 30 rfl]
  rw [step_mid v1 30 22 rfl]
  rw [step_mid v1 22 14 rfl]
  rw [step_mid v1 14 6 rfl]
  rw [step_last v1 (((v2 >>> 45) &&& 0x3)) 2 6 63 rfl rfl
    (Nat.and_lt_two_pow _ (by norm_num))]

theorem upb47_c2 (v1 v2 v3 : Nat) (hv : v2 < 2 ^ 47) :
    (((((u8 (((((v1) &&& 0x3f) <<< 2) ||| ((v2 >>> 45) &&& 0x3))))) &&& 0x3)) <<< 45) ||| ((((u8 (((v2 >>> 37) &&& 0xff))))) <<< 37) ||| ((((u8 (((v2 >>> 29) &&& 0xff))))) <<< 29) ||| ((((u8 (((v2 >>> 21) &&& 0xff))))) <<< 21) ||| ((((u8 (((v2 >>> 13) &&& 0xff))))) <<< 13) ||| ((((u8 (((v2 >>> 5) &&& 0xff))))) <<< 5) ||| ((((u8 (((((v2) &&& 0x1f) <<< 3) ||| ((v3 >>> 44) &&& 0x7)))) >>> 3) &&& 0x1f)) = v2 := by
  rw [step_first (((v1) &&& 0x3f)) v2 47 45 2 3 rfl rfl (by norm_num) hv]
  rw [step_mid v2 45 37 rfl]
  rw [step_mid v2 37 29 rfl]
  rw [step_mid v2 29 21 rfl]
  rw [step_mid v2 21 13 rfl]
  rw [step_mid v2 13 5 rfl]
  rw [step_last v2 (((v3 >>> 44) &&& 0x7)) 3 5 31 rfl rfl
    (Nat.and_lt_two_pow _ (by norm_num))]

theorem upb47_c3 (v2 v3 v4 : Nat) (hv : v3 < 2 ^ 47) :
    (((((u8 (((((v2) &&& 0x1f) <<< 3) ||| ((v3 >>> 44) &&& 0x7))))) &&& 0x7)) <<< 44) ||| ((((u8 (((v3 >>> 36) &&& 0xff))))) <<< 36) ||| ((((u8 (((v3 >>> 28) &&& 0xff))))) <<< 28) ||| ((((u8 (((v3 >>> 20) &&& 0xff))))) <<< 20) ||| ((((u8 (((v3 >>> 12) &&& 0xff))))) <<< 12) ||| ((((u8 (((v3 >>> 4) &&& 0xff))))) <<< 4) ||| ((((u8 (((((v3) &&& 0xf) <<< 4) ||| ((v4 >>> 43) &&& 0xf)))) >>> 4) &&& 0xf)) = v3 := by
  rw [step_first (((v2) &&& 0x1f)) v3 47 44 3 7 rfl rfl (by norm_num) hv]
  rw [step_mid v3 44 36 rfl]
  rw [step_mid v3 36 28 rfl]
  rw [step_mid v3 28 20 rfl]
  rw [step_mid v3 20 12 rfl]
  rw [step_mid v3 12 4 rfl]
  rw [step_last v3 (((v4 >>> 43) &&& 0xf)) 4 4 15 rfl rfl
    (Nat.and_lt_two_pow _ (by norm_num))]

theorem upb47_c4 (v3 v4 v5 : Nat) (hv : v4 < 2 ^ 47) :
    (((((u8 (((((v3) &&& 0xf) <<< 4) ||| ((v4 >>> 43) &&& 0xf))))) &&& 0xf)) <<< 43) ||| ((((u8 (((v4 >>> 35) &&& 0xff))))) <<< 35) ||| ((((u8 (((v4 >>> 27) &&& 0xff))))) <<< 27) ||| ((((u8 (((v4 >>> 19) &&& 0xff))))) <<< 19) ||| ((((u8 (((v4 >>> 11) &&& 0xff))))) <<< 11) ||| ((((u8 (((v4 >>> 3) &&& 0xff))))) <<< 3) ||| ((((u8 (((((v4) &&& 0x7) <<< 5) ||| ((v5 >>> 42) &&& 0x1f)))) >>> 5) &&& 0x7)) = v4 := by
  rw [step_first (((v3) &&& 0xf)) v4 47 43 4 15 rfl rfl (by norm_num) hv]
  rw [step_mid v4 43 35 rfl]
  rw [step_mid v4 35 27 rfl]
  rw [step_mid v4 27 19 rfl]
  rw [step_mid v4 19 11 rfl]
  rw [step_mid v4 11 3 rfl]
  rw [step_last v4 (((v5 >>> 42) &&& 0x1f)) 5 3 7 rfl rfl
    (Nat.and_lt_two_pow _ (by norm_num))]

theorem upb47_c5 (v4 v5 v6 : Nat) (hv : v5 < 2 ^ 47) :
    (((((u8 (((((v4) &&& 0x7) <<< 5) ||| ((v5 >>> 42) &&& 0x1f))))) &&& 0x1f)) <<< 42) ||| ((((u8 (((v5 >>> 34) &&& 0xff))))) <<< 34) ||| ((((u8 (((v5 >>> 26) &&& 0xff))))) <<< 26) ||| ((((u8 (((v5 >>> 18) &&& 0xff))))) <<< 18) ||| ((((u8 (((v5 >>> 10) &&& 0xff))))) <<< 10) ||| ((((u8 (((v5 >>> 2) &&& 0xff))))) <<< 2) ||| ((((u8 (((((v5) &&& 0x3) <<< 6) ||| ((v6 >>> 41) &&& 0x3f)))) >>> 6) &&& 0x3)) = v5 := by
  rw [step_first (((v4) &&& 0x7)) v5 47 42 5 31 rfl rfl (by norm_num) hv]
  rw [step_mid v5 42 34 rfl]
  rw [step_mid v5 34 26 rfl]
  rw [step_mid v5 26 18 rfl]
  rw [step_mid v5 18 10 rfl]
  rw [step_mid v5 10 2 rfl]
  rw [step_last v5 (((v6 >>> 41) &&& 0x3f)) 6 2 3 rfl rfl
    (Nat.and_lt_two_pow _ (by norm_num))]

theorem upb47_c6 (v5 v6 v7 : Nat) (hv : v6 < 2 ^ 47) :
    (((((u8 (((((v5) &&& 0x3) <<< 6) ||| ((v6 >>> 41) &&& 0x3f))))) &&& 0x3f)) <<< 41) ||| ((((u8 (((v6 >>> 33) &&& 0xff))))) <<< 33) ||| ((((u8 (((v6 >>> 25) &&& 0xff))))) <<< 25) ||| ((((u8 (((v6 >>> 17) &&& 0xff))))) <<< 17) ||| ((((u8 (((v6 >>> 9) &&& 0xff))))) <<< 9) ||| ((((u8 (((v6 >>> 1) &&& 0xff))))) <<< 1) ||| ((((u8 (((((v6) &&& 0x1) <<< 7) ||| ((v7 >>> 40) &&& 0x7f)))) >>> 7) &&& 0x1)) = v6 := by
  rw [step_first (((v5) &&& 0x3)) v6 47 41 6 63 rfl rfl (by norm_num) hv]
  rw [step_mid v6 41 33 rfl]
  rw [step_mid v6 33 25 rfl]
  rw [step_mid v6 25 17 rfl]
  rw [step_mid v6 17 9 rfl]
  rw [step_mid v6 9 1 rfl]
  rw [step_last v6 (((v7 >>> 40) &&& 0x7f)) 7 1 1 rfl rfl
    (Nat.and_lt_two_pow _ (by norm_num))]

theorem upb47_c7 (v6 v7 : Nat) (hv : v7 < 2 ^ 47) :
    (((((u8 (((((v6) &&& 0x1) <<< 7) ||| ((v7 >>> 40) &&& 0x7f))))) &&& 0x7f)) <<< 40) ||| ((((u8 (((v7 >>> 32) &&& 0xff))))) <<< 32) ||| ((((u8 (((v7 >>> 24) &&& 0xff))))) <<< 24) ||| ((((u8 (((v7 >>> 16) &&& 0xff))))) <<< 16) ||| ((((u8 (((v7 >>> 8) &&& 0xff))))) <<< 8) ||| (((u8 (((v7) &&& 0xff))))) = v7 := by
  rw [step_first (((v6) &&& 0x1)) v7 47 40 7 127 rfl rfl (by norm_num) hv]
  rw [step_mid v7 40 32 rfl]
  rw [step_mid v7 32 24 rfl]
  rw [step_mid v7 24 16 rfl]
  rw [step_mid v7 16 8 rfl]
  rw [step_low v7]

theorem unpack_pack_bits_47 (v0 v1 v2 v3 v4 v5 v6 v7 : Nat)
    (h0 : v0 < 2 ^ 47) (h1 : v1 < 2 ^ 47) (h2 : v2 < 2 ^ 47) (h3 : v3 < 2 ^ 47) (h4 : v4 < 2 ^ 47) (h5 : v5 < 2 ^ 47) (h6 : v6 < 2 ^ 47) (h7 : v7 < 2 ^ 47) :
    unpack_bits_47 (pack_bits_47 v0 v1 v2 v3 v4 v5 v6 v7) =
      [v0, v1, v2, v3, v4, v5, v6, v7] := by
  have key : unpack_bits_47 (pack_bits_47 v0 v1 v2 v3 v4 v5 v6 v7) =
      [ ((((u8 (((v0 >>> 39) &&& 0xff))))) <<< 39) ||| ((((u8 (((v0 >>> 31) &&& 0xff))))) <<< 31) ||| ((((u8 (((v0 >>> 23) &&& 0xff))))) <<< 23) ||| ((((u8 (((v0 >>> 15) &&& 0xff))))) <<< 15) ||| ((((u8 (((v0 >>> 7) &&& 0xff))))) <<< 7) ||| ((((u8 (((((v0) &&& 0x7f) <<< 1) ||| ((v1 >>> 46) &&& 0x1)))) >>> 1) &&& 0x7f)),
        (((((u8 (((((v0) &&& 0x7f) <<< 1) ||| ((v1 >>> 46) &&& 0x1))))) &&& 0x1)) <<< 46) ||| ((((u8 (((v1 >>> 38) &&& 0xff))))) <<< 38) ||| ((((u8 (((v1 >>> 30) &&& 0xff))))) <<< 30) ||| ((((u8 (((v1 >>> 22) &&& 0xff))))) <<< 22) ||| ((((u8 (((v1 >>> 14) &&& 0xff))))) <<< 14) ||| ((((u8 (((v1 >>> 6) &&& 0xff))))) <<< 6) ||| ((((u8 (((((v1) &&& 0x3f) <<< 2) ||| ((v2 >>> 45) &&& 0x3)))) >>> 2) &&& 0x3f)),
        (((((u8 (((((v1) &&& 0x3f) <<< 2) ||| ((v2 >>> 45) &&& 0x3))))) &&& 0x3)) <<< 45) ||| ((((u8 (((v2 >>> 37) &&& 0xff))))) <<< 37) ||| ((((u8 (((v2 >>> 29) &&& 0xff))))) <<< 29) ||| ((((u8 (((v2 >>> 21) &&& 0xff))))) <<< 21) ||| ((((u8 (((v2 >>> 13) &&& 0xff))))) <<< 13) ||| ((((u8 (((v2 >>> 5) &&& 0xff))))) <<< 5) ||| ((((u8 (((((v2) &&& 0x1f) <<< 3) ||| ((v3 >>> 44) &&& 0x7)))) >>> 3) &&& 0x1f)),
        (((((u8 (((((v2) &&& 0x1f) <<< 3) ||| ((v3 >>> 44) &&& 0x7))))) &&& 0x7)) <<< 44) ||| ((((u8 (((v3 >>> 36) &&& 0xff))))) <<< 36) ||| ((((u8 (((v3 >>> 28) &&& 0xff))))) <<< 28) ||| ((((u8 (((v3 >>> 20) &&& 0xff))))) <<< 20) ||| ((((u8 (((v3 >>> 12) &&& 0xff))))) <<< 12) ||| ((((u8 (((v3 >>> 4) &&& 0xff))))) <<< 4) ||| ((((u8 (((((v3) &&& 0xf) <<< 4) ||| ((v4 >>> 43) &&& 0xf)))) >>> 4) &&& 0xf)),
        (((((u8 (((((v3) &&& 0xf) <<< 4) ||| ((v4 >>> 43) &&& 0xf))))) &&& 0xf)) <<< 43) ||| ((((u8 (((v4 >>> 35) &&& 0xff))))) <<< 35) ||| ((((u8 (((v4 >>> 27) &&& 0xff))))) <<< 27) ||| ((((u8 (((v4 >>> 19) &&& 0xff))))) <<< 19) ||| ((((u8 (((v4 >>> 11) &&& 0xff))))) <<< 11) ||| ((((u8 (((v4 >>> 3) &&& 0xff))))) <<< 3) ||| ((((u8 (((((v4) &&& 0x7) <<< 5) ||| ((v5 >>> 42) &&& 0x1f)))) >>> 5) &&& 0x7)),
        (((((u8 (((((v4) &&& 0x7) <<< 5) ||| ((v5 >>> 42) &&& 0x1f))))) &&& 0x1f)) <<< 42) ||| ((((u8 (((v5 >>> 34) &&& 0xff))))) <<< 34) ||| ((((u8 (((v5 >>> 26) &&& 0xff))))) <<< 26) ||| ((((u8 (((v5 >>> 18) &&& 0xff))))) <<< 18) ||| ((((u8 (((v5 >>> 10) &&& 0xff))))) <<< 10) ||| ((((u8 (((v5 >>> 2) &&& 0xff))))) <<< 2) ||| ((((u8 (((((v5) &&& 0x3) <<< 6) ||| ((v6 >>> 41) &&& 0x3f)))) >>> 6) &&& 0x3)),
        (((((u8 (((((v5) &&& 0x3) <<< 6) ||| ((v6 >>> 41) &&& 0x3f))))) &&& 0x3f)) <<< 41) ||| ((((u8 (((v6 >>> 33) &&& 0xff))))) <<< 33) ||| ((((u8 (((v6 >>> 25) &&& 0xff))))) <<< 25) ||| ((((u8 (((v6 >>> 17) &&& 0xff))))) <<< 17) ||| ((((u8 (((v6 >>> 9) &&& 0xff))))) <<< 9) ||| ((((u8 (((v6 >>> 1) &&& 0xff))))) <<< 1) ||| ((((u8 (((((v6) &&& 0x1) <<< 7) ||| ((v7 >>> 40) &&& 0x7f)))) >>> 7) &&& 0x1)),
        (((((u8 (((((v6) &&& 0x1) <<< 7) ||| ((v7 >>> 40) &&& 0x7f))))) &&& 0x7f)) <<< 40) ||| ((((u8 (((v7 >>> 32) &&& 0xff))))) <<< 32) ||| ((((u8 (((v7 >>> 24) &&& 0xff))))) <<< 24) ||| ((((u8 (((v7 >>> 16) &&& 0xff))))) <<< 16) ||| ((((u8 (((v7 >>> 8) &&& 0xff))))) <<< 8) ||| (((u8 (((v7) &&& 0xff))))) ] := rfl
  rw [key]
  rw [upb47_c0 v0 v1 h0,
    upb47_c1 v0 v1 v2 h1,
    upb47_c2 v1 v2 v3 h2,
    upb47_c3 v2 v3 v4 h3,
    upb47_c4 v3 v4 v5 h4,
    upb47_c5 v4 v5 v6 h5,
    upb47_c6 v5 v6 v7 h6,
    upb47_c7 v6 v7 h7]

theorem upb48_c0 (v0 : Nat) (hv : v0 < 2 ^ 48) :
    ((((u8 (((v0 >>> 40) &&& 0xff))))) <<< 40) ||| ((((u8 (((v0 >>> 32) &&& 0xff))))) <<< 32) ||| ((((u8 (((v0 >>> 24) &&& 0xff))))) <<< 24) ||| ((((u8 (((v0 >>> 16) &&& 0xff))))) <<< 16) ||| ((((u8 (((v0 >>> 8) &&& 0xff))))) <<< 8) ||| (((u8 (((v0) &&& 0xff))))) = v0 := by
  rw [step_top v0 48 40 rfl hv]
  rw [step_mid v0 40 32 rfl]
  rw [step_mid v0 32 24 rfl]
  rw [step_mid v0 24 16 rfl]
  rw [step_mid v0 16 8 rfl]
  rw [step_low v0]

theorem upb48_c1 (v1 : Nat) (hv : v1 < 2 ^ 48) :
    ((((u8 (((v1 >>> 40) &&& 0xff))))) <<< 40) ||| ((((u8 (((v1 >>> 32) &&& 0xff))))) <<< 32) ||| ((((u8 (((v1 >>> 24) &&& 0xff))))) <<< 24) ||| ((((u8 (((v1 >>> 16) &&& 0xff))))) <<< 16) ||| ((((u8 (((v1 >>> 8) &&& 0xff))))) <<< 8) ||| (((u8 (((v1) &&& 0xff))))) = v1 := by
  rw [step_top v1 48 40 rfl hv]
  rw [step_mid v1 40 32 rfl]
  rw [step_mid v1 32 24 rfl]
  rw [step_mid v1 24 16 rfl]
  rw [step_mid v1 16 8 rfl]
  rw [step_low v1]

theorem upb48_c2 (v2 : Nat) (hv : v2 < 2 ^ 48) :
    ((((u8 (((v2 >>> 40) &&& 0xff))))) <<< 40) ||| ((((u8 (((v2 >>> 32) &&& 0xff))))) <<< 32) ||| ((((u8 (((v2 >>> 24) &&& 0xff))))) <<< 24) ||| ((((u8 (((v2 >>> 16) &&& 0xff))))) <<< 16) ||| ((((u8 (((v2 >>> 8) &&& 0xff))))) <<< 8) ||| (((u8 (((v2) &&& 0xff))))) = v2 := by
  rw [step_top v2 48 40 rfl hv]
  rw [step_mid v2 40 32 rfl]
  rw [step_mid v2 32 24 rfl]
  rw [step_mid v2 24 16 rfl]
  rw [step_mid v2 16 8 rfl]
  rw [step_low v2]

theorem upb48_c3 (v3 : Nat) (hv : v3 < 2 ^ 48) :
    ((((u8 (((v3 >>> 40) &&& 0xff))))) <<< 40) ||| ((((u8 (((v3 >>> 32) &&& 0xff))))) <<< 32) ||| ((((u8 (((v3 >>> 24) &&& 0xff))))) <<< 24) ||| ((((u8 (((v3 >>> 16) &&& 0xff))))) <<< 16) ||| ((((u8 (((v3 >>> 8) &&& 0xff))))) <<< 8) ||| (((u8 (((v3) &&& 0xff))))) = v3 := by
  rw [step_top v3 48 40 rfl hv]
  rw [step_mid v3 40 32 rfl]
  rw [step_mid v3 32 24 rfl]
  rw [step_mid v3 24 16 rfl]
  rw [step_mid v3 16 8 rfl]
  rw [step_low v3]

theorem upb48_c4 (v4 : Nat) (hv : v4 < 2 ^ 48) :
    ((((u8 (((v4 >>> 40) &&& 0xff))))) <<< 40) ||| ((((u8 (((v4 >>> 32) &&& 0xff))))) <<< 32) ||| ((((u8 (((v4 >>> 24) &&& 0xff))))) <<< 24) ||| ((((u8 (((v4 >>> 16) &&& 0xff))))) <<< 16) ||| ((((u8 (((v4 >>> 8) &&& 0xff))))) <<< 8) ||| (((u8 (((v4) &&& 0xff))))) = v4 := by
  rw [step_top v4 48 40 rfl hv]
  rw [step_mid v4 40 32 rfl]
  rw [step_mid v4 32 24 rfl]
  rw [step_mid v4 24 16 rfl]
  rw [step_mid v4 16 8 rfl]
  rw [step_low v4]

theorem upb48_c5 (v5 : Nat) (hv : v5 < 2 ^ 48) :
    ((((u8 (((v5 >>> 40) &&& 0xff))))) <<< 40) ||| ((((u8 (((v5 >>> 32) &&& 0xff))))) <<< 32) ||| ((((u8 (((v5 >>> 24) &&& 0xff))))) <<< 24) ||| ((((u8 (((v5 >>> 16) &&& 0xff))))) <<< 16) ||| ((((u8 (((v5 >>> 8) &&& 0xff))))) <<< 8) ||| (((u8 (((v5) &&& 0xff))))) = v5 := by
  rw [step_top v5 48 40 rfl hv]
  rw [step_mid v5 40 32 rfl]
  rw [step_mid v5 32 24 rfl]
  rw [step_mid v5 24 16 rfl]
  rw [step_mid v5 16 8 rfl]
  rw [step_low v5]

theorem upb48_c6 (v6 : Nat) (hv : v6 < 2 ^ 48) :
    ((((u8 (((v6 >>> 40) &&& 0xff))))) <<< 40) ||| ((((u8 (((v6 >>> 32) &&& 0xff))))) <<< 32) ||| ((((u8 (((v6 >>> 24) &&& 0xff))))) <<< 24) ||| ((((u8 (((v6 >>> 16) &&& 0xff))))) <<< 16) ||| ((((u8 (((v6 >>> 8) &&& 0xff))))) <<< 8) ||| (((u8 (((v6) &&& 0xff))))) = v6 := by
  rw [step_top v6 48 40 rfl hv]
  rw [step_mid v6 40 32 rfl]
  rw [step_mid v6 32 24 rfl]
  rw [step_mid v6 24 16 rfl]
  rw [step_mid v6 16 8 rfl]
  rw [step_low v6]

theorem upb48_c7 (v7 : Nat) (hv : v7 < 2 ^ 48) :
    ((((u8 (((v7 >>> 40) &&& 0xff))))) <<< 40) ||| ((((u8 (((v7 >>> 32) &&& 0xff))))) <<< 32) ||| ((((u8 (((v7 >>> 24) &&& 0xff))))) <<< 24) ||| ((((u8 (((v7 >>> 16) &&& 0xff))))) <<< 16) ||| ((((u8 (((v7 >>> 8) &&& 0xff))))) <<< 8) ||| (((u8 (((v7) &&& 0xff))))) = v7 := by
  rw [step_top v7 48 40 rfl hv]
  rw [step_mid v7 40 32 rfl]
  rw [step_mid v7 32 24 rfl]
  rw [step_mid v7 24 16 rfl]
  rw [step_mid v7 16 8 rfl]
  rw [step_low v7]

theorem unpack_pack_bits_48 (v0 v1 v2 v3 v4 v5 v6 v7 : Nat)
    (h0 : v0 < 2 ^ 48) (h1 : v1 < 2 ^ 48) (h2 : v2 < 2 ^ 48) (h3 : v3 < 2 ^ 48) (h4 : v4 < 2 ^ 48) (h5 : v5 < 2 ^ 48) (h6 : v6 < 2 ^ 48) (h7 : v7 < 2 ^ 48) :
    unpack_bits_48 (pack_bits_48 v0 v1 v2 v3 v4 v5 v6 v7) =
      [v0, v1, v2, v3, v4, v5, v6, v7] := by
  have key : unpack_bits_48 (pack_bits_48 v0 v1 v2 v3 v4 v5 v6 v7) =
      [ ((((u8 (((v0 >>> 40) &&& 0xff))))) <<< 40) ||| ((((u8 (((v0 >>> 32) &&& 0xff))))) <<< 32) ||| ((((u8 (((v0 >>> 24) &&& 0xff))))) <<< 24) ||| ((((u8 (((v0 >>> 16) &&& 0xff))))) <<< 16) ||| ((((u8 (((v0 >>> 8) &&& 0xff))))) <<< 8) ||| (((u8 (((v0) &&& 0xff))))),
        ((((u8 (((v1 >>> 40) &&& 0xff))))) <<< 40) ||| ((((u8 (((v1 >>> 32) &&& 0xff))))) <<< 32) ||| ((((u8 (((v1 >>> 24) &&& 0xff))))) <<< 24) ||| ((((u8 (((v1 >>> 16) &&& 0xff))))) <<< 16) ||| ((((u8 (((v1 >>> 8) &&& 0xff))))) <<< 8) ||| (((u8 (((v1) &&& 0xff))))),
        ((((u8 (((v2 >>> 40) &&& 0xff))))) <<< 40) ||| ((((u8 (((v2 >>> 32) &&& 0xff))))) <<< 32) ||| ((((u8 (((v2 >>> 24) &&& 0xff))))) <<< 24) ||| ((((u8 (((v2 >>> 16) &&& 0xff))))) <<< 16) ||| ((((u8 (((v2 >>> 8) &&& 0xff))))) <<< 8) ||| (((u8 (((v2) &&& 0xff))))),
        ((((u8 (((v3 >>> 40) &&& 0xff))))) <<< 40) ||| ((((u8 (((v3 >>> 32) &&& 0xff))))) <<< 32) ||| ((((u8 (((v3 >>> 24) &&& 0xff))))) <<< 24) ||| ((((u8 (((v3 >>> 16) &&& 0xff))))) <<< 16) ||| ((((u8 (((v3 >>> 8) &&& 0xff))))) <<< 8) ||| (((u8 (((v3) &&& 0xff))))),
        ((((u8 (((v4 >>> 40) &&& 0xff))))) <<< 40) ||| ((((u8 (((v4 >>> 32) &&& 0xff))))) <<< 32) ||| ((((u8 (((v4 >>> 24) &&& 0xff))))) <<< 24) ||| ((((u8 (((v4 >>> 16) &&& 0xff))))) <<< 16) ||| ((((u8 (((v4 >>> 8) &&& 0xff))))) <<< 8) ||| (((u8 (((v4) &&& 0xff))))),
        ((((u8 (((v5 >>> 40) &&& 0xff))))) <<< 40) ||| ((((u8 (((v5 >>> 32) &&& 0xff))))) <<< 32) ||| ((((u8 (((v5 >>> 24) &&& 0xff))))) <<< 24) ||| ((((u8 (((v5 >>> 16) &&& 0xff))))) <<< 16) ||| ((((u8 (((v5 >>> 8) &&& 0xff))))) <<< 8) ||| (((u8 (((v5) &&& 0xff))))),
        ((((u8 (((v6 >>> 40) &&& 0xff))))) <<< 40) ||| ((((u8 (((v6 >>> 32) &&& 0xff))))) <<< 32) ||| ((((u8 (((v6 >>> 24) &&& 0xff))))) <<< 24) ||| ((((u8 (((v6 >>> 16) &&& 0xff))))) <<< 16) ||| ((((u8 (((v6 >>> 8) &&& 0xff))))) <<< 8) ||| (((u8 (((v6) &&& 0xff))))),
        ((((u8 (((v7 >>> 40) &&& 0xff))))) <<< 40) ||| ((((u8 (((v7 >>> 32) &&& 0xff))))) <<< 32) ||| ((((u8 (((v7 >>> 24) &&& 0xff))))) <<< 24) ||| ((((u8 (((v7 >>> 16) &&& 0xff))))) <<< 16) ||| ((((u8 (((v7 >>> 8) &&& 0xff))))) <<< 8) ||| (((u8 (((v7) &&& 0xff))))) ] := rfl
  rw [key]
  rw [upb48_c0 v0 h0,
    upb48_c1 v1 h1,
    upb48_c2 v2 h2,
    upb48_c3 v3 h3,
    upb48_c4 v4 h4,
    upb48_c5 v5 h5,
    upb48_c6 v6 h6,
    upb48_c7 v7 h7]

theorem upb49_c0 (v0 v1 : Nat) (hv : v0 < 2 ^ 49) :
    ((((u8 (((v0 >>> 41) &&& 0xff))))) <<< 41) ||| ((((u8 (((v0 >>> 33) &&& 0xff))))) <<< 33) ||| ((((u8 (((v0 >>> 25) &&& 0xff))))) <<< 25) ||| ((((u8 (((v0 >>> 17) &&& 0xff))))) <<< 17) ||| ((((u8 (((v0 >>> 9) &&& 0xff))))) <<< 9) ||| ((((u8 (((v0 >>> 1) &&& 0xff))))) <<< 1) ||| ((((u8 (((((v0) &&& 0x1) <<< 7) ||| ((v1 >>> 42) &&& 0x7f)))) >>> 7) &&& 0x1)) = v0 := by
  rw [step_top v0 49 41 rfl hv]
  rw [step_mid v0 41 33 rfl]
  rw [step_mid v0 33 25 rfl]
  rw [step_mid v0 25 17 rfl]
  rw [step_mid v0 17 9 rfl]
  rw [step_mid v0 9 1 rfl]
  rw [step_last v0 (((v1 >>> 42) &&& 0x7f)) 7 1 1 rfl rfl
    (Nat.and_lt_two_pow _ (by norm_num))]

theorem upb49_c1 (v0 v1 v2 : Nat) (hv : v1 < 2 ^ 49) :
    (((((u8 (((((v0) &&& 0x1) <<< 7) ||| ((v1 >>> 42) &&& 0x7f))))) &&& 0x7f)) <<< 42) ||| ((((u8 (((v1 >>> 34) &&& 0xff))))) <<< 34) ||| ((((u8 (((v1 >>> 26) &&& 0xff))))) <<< 26) ||| ((((u8 (((v1 >>> 18) &&& 0xff))))) <<< 18) ||| ((((u8 (((v1 >>> 10) &&& 0xff))))) <<< 10) ||| ((((u8 (((v1 >>> 2) &&& 0xff))))) <<< 2) ||| ((((u8 (((((v1) &&& 0x3) <<< 6) ||| ((v2 >>> 43) &&& 0x3f)))) >>> 6) &&& 0x3)) = v1 := by
  rw [step_first (((v0) &&& 0x1)) v1 49 42 7 127 rfl rfl (by norm_num) hv]
  rw [step_mid v1 42 34 rfl]
  rw [step_mid v1 34 26 rfl]
  rw [step_mid v1 26 18 rfl]
  rw [step_mid v1 18 10 rfl]
  rw [step_mid v1 10 2 rfl]
  rw [step_last v1 (((v2 >>> 43) &&& 0x3f)) 6 2 3 rfl rfl
    (Nat.and_lt_two_pow _ (by norm_num))]

theorem upb49_c2 (v1 v2 v3 : Nat) (hv : v2 < 2 ^ 49) :
    (((((u8 (((((v1) &&& 0x3) <<< 6) ||| ((v2 >>> 43) &&& 0x3f))))) &&& 0x3f)) <<< 43) ||| ((((u8 (((v2 >>> 35) &&& 0xff))))) <<< 35) ||| ((((u8 (((v2 >>> 27) &&& 0xff))))) <<< 27) ||| ((((u8 (((v2 >>> 19) &&& 0xff))))) <<< 19) ||| ((((u8 (((v2 >>> 11) &&& 0xff))))) <<< 11) ||| ((((u8 (((v2 >>> 3) &&& 0xff))))) <<< 3) ||| ((((u8 (((((v2) &&& 0x7) <<< 5) ||| ((v3 >>> 44) &&& 0x1f)))) >>> 5) &&& 0x7)) = v2 := by
  rw [step_first (((v1) &&& 0x3)) v2 49 43 6 63 rfl rfl (by norm_num) hv]
  rw [step_mid v2 43 35 rfl]
  rw [step_mid v2 35 27 rfl]
  rw [step_mid v2 27 19 rfl]
  rw [step_mid v2 19 11 rfl]
  rw [step_mid v2 11 3 rfl]
  rw [step_last v2 (((v3 >>> 44) &&& 0x1f)) 5 3 7 rfl rfl
    (Nat.and_lt_two_pow _ (by norm_num))]

theorem upb49_c3 (v2 v3 v4 : Nat) (hv : v3 < 2 ^ 49) :
    (((((u8 (((((v2) &&& 0x7) <<< 5) ||| ((v3 >>> 44) &&& 0x1f))))) &&& 0x1f)) <<< 44) ||| ((((u8 (((v3 >>> 36) &&& 0xff))))) <<< 36) ||| ((((u8 (((v3 >>> 28) &&& 0xff))))) <<< 28) ||| ((((u8 (((v3 >>> 20) &&& 0xff))))) <<< 20) ||| ((((u8 (((v3 >>> 12) &&& 0xff))))) <<< 12) ||| ((((u8 (((v3 >>> 4) &&& 0xff))))) <<< 4) ||| ((((u8 (((((v3) &&& 0xf) <<< 4) ||| ((v4 >>> 45) &&& 0xf)))) >>> 4) &&& 0xf)) = v3 := by
  rw [step_first (((v2) &&& 0x7)) v3 49 44 5 31 rfl rfl (by norm_num) hv]
  rw [step_mid v3 44 36 rfl]
  rw [step_mid v3 36 28 rfl]
  rw [step_mid v3 28 20 rfl]
  rw [step_mid v3 20 12 rfl]
  rw [step_mid v3 12 4 rfl]
  rw [step_last v3 (((v4 >>> 45) &&& 0xf)) 4 4 15 rfl rfl
    (Nat.and_lt_two_pow _ (by norm_num))]

theorem upb49_c4 (v3 v4 v5 : Nat) (hv : v4 < 2 ^ 49) :
    (((((u8 (((((v3) &&& 0xf) <<< 4) ||| ((v4 >>> 45) &&& 0xf))))) &&& 0xf)) <<< 45) ||| ((((u8 (((v4 >>> 37) &&& 0xff))))) <<< 37) ||| ((((u8 (((v4 >>> 29) &&& 0xff))))) <<< 29) ||| ((((u8 (((v4 >>> 21) &&& 0xff))))) <<< 21) ||| ((((u8 (((v4 >>> 13) &&& 0xff))))) <<< 13) ||| ((((u8 (((v4 >>> 5) &&& 0xff))))) <<< 5) ||| ((((u8 (((((v4) &&& 0x1f) <<< 3) ||| ((v5 >>> 46) &&& 0x7)))) >>> 3) &&& 0x1f)) = v4 := by
  rw [step_first (((v3) &&& 0xf)) v4 49 45 4 15 rfl rfl (by norm_num) hv]
  rw [step_mid v4 45 37 rfl]
  rw [step_mid v4 37 29 rfl]
  rw [step_mid v4 29 21 rfl]
  rw [step_mid v4 21 13 rfl]
  rw [step_mid v4 13 5 rfl]
  rw [step_last v4 (((v5 >>> 46) &&& 0x7)) 3 5 31 rfl rfl
    (Nat.and_lt_two_pow _ (by norm_num))]

theorem upb49_c5 (v4 v5 v6 : Nat) (hv : v5 < 2 ^ 49) :
    (((((u8 (((((v4) &&& 0x1f) <<< 3) ||| ((v5 >>> 46) &&& 0x7))))) &&& 0x7)) <<< 46) ||| ((((u8 (((v5 >>> 38) &&& 0xff))))) <<< 38) ||| ((((u8 (((v5 >>> 30) &&& 0xff))))) <<< 30) ||| ((((u8 (((v5 >>> 22) &&& 0xff))))) <<< 22) ||| ((((u8 (((v5 >>> 14) &&& 0xff))))) <<< 14) ||| ((((u8 (((v5 >>> 6) &&& 0xff))))) <<< 6) ||| ((((u8 (((((v5) &&& 0x3f) <<< 2) ||| ((v6 >>> 47) &&& 0x3)))) >>> 2) &&& 0x3f)) = v5 := by
  rw [step_first (((v4) &&& 0x1f)) v5 49 46 3 7 rfl rfl (by norm_num) hv]
  rw [step_mid v5 46 38 rfl]
  rw [step_mid v5 38 30 rfl]
  rw [step_mid v5 30 22 rfl]
  rw [step_mid v5 22 14 rfl]
  rw [step_mid v5 14 6 rfl]
  rw [step_last v5 (((v6 >>> 47) &&& 0x3)) 2 6 63 rfl rfl
    (Nat.and_lt_two_pow _ (by norm_num))]

theorem upb49_c6 (v5 v6 v7 : Nat) (hv : v6 < 2 ^ 49) :
    (((((u8 (((((v5) &&& 0x3f) <<< 2) ||| ((v6 >>> 47) &&& 0x3))))) &&& 0x3)) <<< 47) ||| ((((u8 (((v6 >>> 39) &&& 0xff))))) <<< 39) ||| ((((u8 (((v6 >>> 31) &&& 0xff))))) <<< 31) ||| ((((u8 (((v6 >>> 23) &&& 0xff))))) <<< 23) ||| ((((u8 (((v6 >>> 15) &&& 0xff))))) <<< 15) ||| ((((u8 (((v6 >>> 7) &&& 0xff))))) <<< 7) ||| ((((u8 (((((v6) &&& 0x7f) <<< 1) ||| ((v7 >>> 48) &&& 0x1)))) >>> 1) &&& 0x7f)) = v6 := by
  rw [step_first (((v5) &&& 0x3f)) v6 49 47 2 3 rfl rfl (by norm_num) hv]
  rw [step_mid v6 47 39 rfl]
  rw [step_mid v6 39 31 rfl]
  rw [step_mid v6 31 23 rfl]
  rw [step_mid v6 23 15 rfl]
  rw [step_mid v6 15 7 rfl]
  rw [step_last v6 (((v7 >>> 48) &&& 0x1)) 1 7 127 rfl rfl
    (Nat.and_lt_two_pow _ (by norm_num))]

theorem upb49_c7 (v6 v7 : Nat) (hv : v7 < 2 ^ 49) :
    (((((u8 (((((v6) &&& 0x7f) <<< 1) ||| ((v7 >>> 48) &&& 0x1))))) &&& 0x1)) <<< 48) ||| ((((u8 (((v7 >>> 40) &&& 0xff))))) <<< 40) ||| ((((u8 (((v7 >>> 32) &&& 0xff))))) <<< 32) ||| ((((u8 (((v7 >>> 24) &&& 0xff))))) <<< 24) ||| ((((u8 (((v7 >>> 16) &&& 0xff))))) <<< 16) ||| ((((u8 (((v7 >>> 8) &&& 0xff))))) <<< 8) ||| (((u8 (((v7) &&& 0xff))))) = v7 := by
  rw [step_first (((v6) &&& 0x7f)) v7 49 48 1 1 rfl rfl (by norm_num) hv]
  rw [step_mid v7 48 40 rfl]
  rw [step_mid v7 40 32 rfl]
  rw [step_mid v7 32 24 rfl]
  rw [step_mid v7 24 16 rfl]
  rw [step_mid v7 16 8 rfl]
  rw [step_low v7]

theorem unpack_pack_bits_49 (v0 v1 v2 v3 v4 v5 v6 v7 : Nat)
    (h0 : v0 < 2 ^ 49) (h1 : v1 < 2 ^ 49) (h2 : v2 < 2 ^ 49) (h3 : v3 < 2 ^ 49) (h4 : v4 < 2 ^ 49) (h5 : v5 < 2 ^ 49) (h6 : v6 < 2 ^ 49) (h7 : v7 < 2 ^ 49) :
    unpack_bits_49 (pack_bits_49 v0 v1 v2 v3 v4 v5 v6 v7) =
      [v0, v1, v2, v3, v4, v5, v6, v7] := by
  have key : unpack_bits_49 (pack_bits_49 v0 v1 v2 v3 v4 v5 v6 v7) =
      [ ((((u8 (((v0 >>> 41) &&& 0xff))))) <<< 41) ||| ((((u8 (((v0 >>> 33) &&& 0xff))))) <<< 33) ||| ((((u8 (((v0 >>> 25) &&& 0xff))))) <<< 25) ||| ((((u8 (((v0 >>> 17) &&& 0xff))))) <<< 17) ||| ((((u8 (((v0 >>> 9) &&& 0xff))))) <<< 9) ||| ((((u8 (((v0 >>> 1) &&& 0xff))))) <<< 1) ||| ((((u8 (((((v0) &&& 0x1) <<< 7) ||| ((v1 >>> 42) &&& 0x7f)))) >>> 7) &&& 0x1)),
        (((((u8 (((((v0) &&& 0x1) <<< 7) ||| ((v1 >>> 42) &&& 0x7f))))) &&& 0x7f)) <<< 42) ||| ((((u8 (((v1 >>> 34) &&& 0xff))))) <<< 34) ||| ((((u8 (((v1 >>> 26) &&& 0xff))))) <<< 26) ||| ((((u8 (((v1 >>> 18) &&& 0xff))))) <<< 18) ||| ((((u8 (((v1 >>> 10) &&& 0xff))))) <<< 10) ||| ((((u8 (((v1 >>> 2) &&& 0xff))))) <<< 2) ||| ((((u8 (((((v1) &&& 0x3) <<< 6) ||| ((v2 >>> 43) &&& 0x3f)))) >>> 6) &&& 0x3)),
        (((((u8 (((((v1) &&& 0x3) <<< 6) ||| ((v2 >>> 43) &&& 0x3f))))) &&& 0x3f)) <<< 43) ||| ((((u8 (((v2 >>> 35) &&& 0xff))))) <<< 35) ||| ((((u8 (((v2 >>> 27) &&& 0xff))))) <<< 27) ||| ((((u8 (((v2 >>> 19) &&& 0xff))))) <<< 19) ||| ((((u8 (((v2 >>> 11) &&& 0xff))))) <<< 11) ||| ((((u8 (((v2 >>> 3) &&& 0xff))))) <<< 3) ||| ((((u8 (((((v2) &&& 0x7) <<< 5) ||| ((v3 >>> 44) &&& 0x1f)))) >>> 5) &&& 0x7)),
        (((((u8 (((((v2) &&& 0x7) <<< 5) ||| ((v3 >>> 44) &&& 0x1f))))) &&& 0x1f)) <<< 44) ||| ((((u8 (((v3 >>> 36) &&& 0xff))))) <<< 36) ||| ((((u8 (((v3 >>> 28) &&& 0xff))))) <<< 28) ||| ((((u8 (((v3 >>> 20) &&& 0xff))))) <<< 20) ||| ((((u8 (((v3 >>> 12) &&& 0xff))))) <<< 12) ||| ((((u8 (((v3 >>> 4) &&& 0xff))))) <<< 4) ||| ((((u8 (((((v3) &&& 0xf) <<< 4) ||| ((v4 >>> 45) &&& 0xf)))) >>> 4) &&& 0xf)),
        (((((u8 (((((v3) &&& 0xf) <<< 4) ||| ((v4 >>> 45) &&& 0xf))))) &&& 0xf)) <<< 45) ||| ((((u8 (((v4 >>> 37) &&& 0xff))))) <<< 37) ||| ((((u8 (((v4 >>> 29) &&& 0xff))))) <<< 29) ||| ((((u8 (((v4 >>> 21) &&& 0xff))))) <<< 21) ||| ((((u8 (((v4 >>> 13) &&& 0xff))))) <<< 13) ||| ((((u8 (((v4 >>> 5) &&& 0xff))))) <<< 5) ||| ((((u8 (((((v4) &&& 0x1f) <<< 3) ||| ((v5 >>> 46) &&& 0x7)))) >>> 3) &&& 0x1f)),
        (((((u8 (((((v4) &&& 0x1f) <<< 3) ||| ((v5 >>> 46) &&& 0x7))))) &&& 0x7)) <<< 46) ||| ((((u8 (((v5 >>> 38) &&& 0xff))))) <<< 38) ||| ((((u8 (((v5 >>> 30) &&& 0xff))))) <<< 30) ||| ((((u8 (((v5 >>> 22) &&& 0xff))))) <<< 22) ||| ((((u8 (((v5 >>> 14) &&& 0xff))))) <<< 14) ||| ((((u8 (((v5 >>> 6) &&& 0xff))))) <<< 6) ||| ((((u8 (((((v5) &&& 0x3f) <<< 2) ||| ((v6 >>> 47) &&& 0x3)))) >>> 2) &&& 0x3f)),
        (((((u8 (((((v5) &&& 0x3f) <<< 2) ||| ((v6 >>> 47) &&& 0x3))))) &&& 0x3)) <<< 47) ||| ((((u8 (((v6 >>> 39) &&& 0xff))))) <<< 39) ||| ((((u8 (((v6 >>> 31) &&& 0xff))))) <<< 31) ||| ((((u8 (((v6 >>> 23) &&& 0xff))))) <<< 23) ||| ((((u8 (((v6 >>> 15) &&& 0xff))))) <<< 15) ||| ((((u8 (((v6 >>> 7) &&& 0xff))))) <<< 7) ||| ((((u8 (((((v6) &&& 0x7f) <<< 1) ||| ((v7 >>> 48) &&& 0x1)))) >>> 1) &&& 0x7f)),
        (((((u8 (((((v6) &&& 0x7f) <<< 1) ||| ((v7 >>> 48) &&& 0x1))))) &&& 0x1)) <<< 48) ||| ((((u8 (((v7 >>> 40) &&& 0xff))))) <<< 40) ||| ((((u8 (((v7 >>> 32) &&& 0xff))))) <<< 32) ||| ((((u8 (((v7 >>> 24) &&& 0xff))))) <<< 24) ||| ((((u8 (((v7 >>> 16) &&& 0xff))))) <<< 16) ||| ((((u8 (((v7 >>> 8) &&& 0xff))))) <<< 8) ||| (((u8 (((v7) &&& 0xff))))) ] := rfl
  rw [key]
  rw [upb49_c0 v0 v1 h0,
    upb49_c1 v0 v1 v2 h1,
    upb49_c2 v1 v2 v3 h2,
    upb49_c3 v2 v3 v4 h3,
    upb49_c4 v3 v4 v5 h4,
    upb49_c5 v4 v5 v6 h5,
    upb49_c6 v5 v6 v7 h6,
    upb49_c7 v6 v7 h7]

theorem upb50_c0 (v0 v1 : Nat) (hv : v0 < 2 ^ 50) :
    ((((u8 (((v0 >>> 42) &&& 0xff))))) <<< 42) ||| ((((u8 (((v0 >>> 34) &&& 0xff))))) <<< 34) ||| ((((u8 (((v0 >>> 26) &&& 0xff))))) <<< 26) ||| ((((u8 (((v0 >>> 18) &&& 0xff))))) <<< 18) ||| ((((u8 (((v0 >>> 10) &&& 0xff))))) <<< 10) ||| ((((u8 (((v0 >>> 2) &&& 0xff))))) <<< 2) ||| ((((u8 (((((v0) &&& 0x3) <<< 6) ||| ((v1 >>> 44) &&& 0x3f)))) >>> 6) &&& 0x3)) = v0 := by
  rw [step_top v0 50 42 rfl hv]
  rw [step_mid v0 42 34 rfl]
  rw [step_mid v0 34 26 rfl]
  rw [step_mid v0 26 18 rfl]
  rw [step_mid v0 18 10 rfl]
  rw [step_mid v0 10 2 rfl]
  rw [step_last v0 (((v1 >>> 44) &&& 0x3f)) 6 2 3 rfl rfl
    (Nat.and_lt_two_pow _ (by norm_num))]

theorem upb50_c1 (v0 v1 v2 : Nat) (hv : v1 < 2 ^ 50) :
    (((((u8 (((((v0) &&& 0x3) <<< 6) ||| ((v1 >>> 44) &&& 0x3f))))) &&& 0x3f)) <<< 44) ||| ((((u8 (((v1 >>> 36) &&& 0xff))))) <<< 36) ||| ((((u8 (((v1 >>> 28) &&& 0xff))))) <<< 28) ||| ((((u8 (((v1 >>> 20) &&& 0xff))))) <<< 20) ||| ((((u8 (((v1 >>> 12) &&& 0xff))))) <<< 12) ||| ((((u8 (((v1 >>> 4) &&& 0xff))))) <<< 4) ||| ((((u8 (((((v1) &&& 0xf) <<< 4) ||| ((v2 >>> 46) &&& 0xf)))) >>> 4) &&& 0xf)) = v1 := by
  rw [step_first (((v0) &&& 0x3)) v1 50 44 6 63 rfl rfl (by norm_num) hv]
  rw [step_mid v1 44 36 rfl]
  rw [step_mid v1 36 28 rfl]
  rw [step_mid v1 28 20 rfl]
  rw [step_mid v1 20 12 rfl]
  rw [step_mid v1 12 4 rfl]
  rw [step_last v1 (((v2 >>> 46) &&& 0xf)) 4 4 15 rfl rfl
    (Nat.and_lt_two_pow _ (by norm_num))]

theorem upb50_c2 (v1 v2 v3 : Nat) (hv : v2 < 2 ^ 50) :
    (((((u8 (((((v1) &&& 0xf) <<< 4) ||| ((v2 >>> 46) &&& 0xf))))) &&& 0xf)) <<< 46) ||| ((((u8 (((v2 >>> 38) &&& 0xff))))) <<< 38) ||| ((((u8 (((v2 >>> 30) &&& 0xff))))) <<< 30) ||| ((((u8 (((v2 >>> 22) &&& 0xff))))) <<< 22) ||| ((((u8 (((v2 >>> 14) &&& 0xff))))) <<< 14) ||| ((((u8 (((v2 >>> 6) &&& 0xff))))) <<< 6) ||| ((((u8 (((((v2) &&& 0x3f) <<< 2) ||| ((v3 >>> 48) &&& 0x3)))) >>> 2) &&& 0x3f)) = v2 := by
  rw [step_first (((v1) &&& 0xf)) v2 50 46 4 15 rfl rfl (by norm_num) hv]
  rw [step_mid v2 46 38 rfl]
  rw [step_mid v2 38 30 rfl]
  rw [step_mid v2 30 22 rfl]
  rw [step_mid v2 22 14 rfl]
  rw [step_mid v2 14 6 rfl]
  rw [step_last v2 (((v3 >>> 48) &&& 0x3)) 2 6 63 rfl rfl
    (Nat.and_lt_two_pow _ (by norm_num))]

theorem upb50_c3 (v2 v3 : Nat) (hv : v3 < 2 ^ 50) :
    (((((u8 (((((v2) &&& 0x3f) <<< 2) ||| ((v3 >>> 48) &&& 0x3))))) &&& 0x3)) <<< 48) ||| ((((u8 (((v3 >>> 40) &&& 0xff))))) <<< 40) ||| ((((u8 (((v3 >>> 32) &&& 0xff))))) <<< 32) ||| ((((u8 (((v3 >>> 24) &&& 0xff))))) <<< 24) ||| ((((u8 (((v3 >>> 16) &&& 0xff))))) <<< 16) ||| ((((u8 (((v3 >>> 8) &&& 0xff))))) <<< 8) ||| (((u8 (((v3) &&& 0xff))))) = v3 := by
  rw [step_first (((v2) &&& 0x3f)) v3 50 48 2 3 rfl rfl (by norm_num) hv]
  rw [step_mid v3 48 40 rfl]
  rw [step_mid v3 40 32 rfl]
  rw [step_mid v3 32 24 rfl]
  rw [step_mid v3 24 16 rfl]
  rw [step_mid v3 16 8 rfl]
  rw [step_low v3]

theorem upb50_c4 (v4 v5 : Nat) (hv : v4 < 2 ^ 50) :
    ((((u8 (((v4 >>> 42) &&& 0xff))))) <<< 42) ||| ((((u8 (((v4 >>> 34) &&& 0xff))))) <<< 34) ||| ((((u8 (((v4 >>> 26) &&& 0xff))))) <<< 26) ||| ((((u8 (((v4 >>> 18) &&& 0xff))))) <<< 18) ||| ((((u8 (((v4 >>> 10) &&& 0xff))))) <<< 10) ||| ((((u8 (((v4 >>> 2) &&& 0xff))))) <<< 2) ||| ((((u8 (((((v4) &&& 0x3) <<< 6) ||| ((v5 >>> 44) &&& 0x3f)))) >>> 6) &&& 0x3)) = v4 := by
  rw [step_top v4 50 42 rfl hv]
  rw [step_mid v4 42 34 rfl]
  rw [step_mid v4 34 26 rfl]
  rw [step_mid v4 26 18 rfl]
  rw [step_mid v4 18 10 rfl]
  rw [step_mid v4 10 2 rfl]
  rw [step_last v4 (((v5 >>> 44) &&& 0x3f)) 6 2 3 rfl rfl
    (Nat.and_lt_two_pow _ (by norm_num))]

theorem upb50_c5 (v4 v5 v6 : Nat) (hv : v5 < 2 ^ 50) :
    (((((u8 (((((v4) &&& 0x3) <<< 6) ||| ((v5 >>> 44) &&& 0x3f))))) &&& 0x3f)) <<< 44) ||| ((((u8 (((v5 >>> 36) &&& 0xff))))) <<< 36) ||| ((((u8 (((v5 >>> 28) &&& 0xff))))) <<< 28) ||| ((((u8 (((v5 >>> 20) &&& 0xff))))) <<< 20) ||| ((((u8 (((v5 >>> 12) &&& 0xff))))) <<< 12) ||| ((((u8 (((v5 >>> 4) &&& 0xff))))) <<< 4) ||| ((((u8 (((((v5) &&& 0xf) <<< 4) ||| ((v6 >>> 46) &&& 0xf)))) >>> 4) &&& 0xf)) = v5 := by
  rw [step_first (((v4) &&& 0x3)) v5 50 44 6 63 rfl rfl (by norm_num) hv]
  rw [step_mid v5 44 36 rfl]
  rw [step_mid v5 36 28 rfl]
  rw [step_mid v5 28 20 rfl]
  rw [step_mid v5 20 12 rfl]
  rw [step_mid v5 12 4 rfl]
  rw [step_last v5 (((v6 >>> 46) &&& 0xf)) 4 4 15 rfl rfl
    (Nat.and_lt_two_pow _ (by norm_num))]

theorem upb50_c6 (v5 v6 v7 : Nat) (hv : v6 < 2 ^ 50) :
    (((((u8 (((((v5) &&& 0xf) <<< 4) ||| ((v6 >>> 46) &&& 0xf))))) &&& 0xf)) <<< 46) ||| ((((u8 (((v6 >>> 38) &&& 0xff))))) <<< 38) ||| ((((u8 (((v6 >>> 30) &&& 0xff))))) <<< 30) ||| ((((u8 (((v6 >>> 22) &&& 0xff))))) <<< 22) ||| ((((u8 (((v6 >>> 14) &&& 0xff))))) <<< 14) ||| ((((u8 (((v6 >>> 6) &&& 0xff))))) <<< 6) ||| ((((u8 (((((v6) &&& 0x3f) <<< 2) ||| ((v7 >>> 48) &&& 0x3)))) >>> 2) &&& 0x3f)) = v6 := by
  rw [step_first (((v5) &&& 0xf)) v6 50 46 4 15 rfl rfl (by norm_num) hv]
  rw [step_mid v6 46 38 rfl]
  rw [step_mid v6 38 30 rfl]
  rw [step_mid v6 30 22 rfl]
  rw [step_mid v6 22 14 rfl]
  rw [step_mid v6 14 6 rfl]
  rw [step_last v6 (((v7 >>> 48) &&& 0x3)) 2 6 63 rfl rfl
    (Nat.and_lt_two_pow _ (by norm_num))]

theorem upb50_c7 (v6 v7 : Nat) (hv : v7 < 2 ^ 50) :
    (((((u8 (((((v6) &&& 0x3f) <<< 2) ||| ((v7 >>> 48) &&& 0x3))))) &&& 0x3)) <<< 48) ||| ((((u8 (((v7 >>> 40) &&& 0xff))))) <<< 40) ||| ((((u8 (((v7 >>> 32) &&& 0xff))))) <<< 32) ||| ((((u8 (((v7 >>> 24) &&& 0xff))))) <<< 24) ||| ((((u8 (((v7 >>> 16) &&& 0xff))))) <<< 16) ||| ((((u8 (((v7 >>> 8) &&& 0xff))))) <<< 8) ||| (((u8 (((v7) &&& 0xff))))) = v7 := by
  rw [step_first (((v6) &&& 0x3f)) v7 50 48 2 3 rfl rfl (by norm_num) hv]
  rw [step_mid v7 48 40 rfl]
  rw [step_mid v7 40 32 rfl]
  rw [step_mid v7 32 24 rfl]
  rw [step_mid v7 24 16 rfl]
  rw [step_mid v7 16 8 rfl]
  rw [step_low v7]

theorem unpack_pack_bits_50 (v0 v1 v2 v3 v4 v5 v6 v7 : Nat)
    (h0 : v0 < 2 ^ 50) (h1 : v1 < 2 ^ 50) (h2 : v2 < 2 ^ 50) (h3 : v3 < 2 ^ 50) (h4 : v4 < 2 ^ 50) (h5 : v5 < 2 ^ 50) (h6 : v6 < 2 ^ 50) (h7 : v7 < 2 ^ 50) :
    unpack_bits_50 (pack_bits_50 v0 v1 v2 v3 v4 v5 v6 v7) =
      [v0, v1, v2, v3, v4, v5, v6, v7] := by
  have key : unpack_bits_50 (pack_bits_50 v0 v1 v2 v3 v4 v5 v6 v7) =
      [ ((((u8 (((v0 >>> 42) &&& 0xff))))) <<< 42) ||| ((((u8 (((v0 >>> 34) &&& 0xff))))) <<< 34) ||| ((((u8 (((v0 >>> 26) &&& 0xff))))) <<< 26) ||| ((((u8 (((v0 >>> 18) &&& 0xff))))) <<< 18) ||| ((((u8 (((v0 >>> 10) &&& 0xff))))) <<< 10) ||| ((((u8 (((v0 >>> 2) &&& 0xff))))) <<< 2) ||| ((((u8 (((((v0) &&& 0x3) <<< 6) ||| ((v1 >>> 44) &&& 0x3f)))) >>> 6) &&& 0x3)),
        (((((u8 (((((v0) &&& 0x3) <<< 6) ||| ((v1 >>> 44) &&& 0x3f))))) &&& 0x3f)) <<< 44) ||| ((((u8 (((v1 >>> 36) &&& 0xff))))) <<< 36) ||| ((((u8 (((v1 >>> 28) &&& 0xff))))) <<< 28) ||| ((((u8 (((v1 >>> 20) &&& 0xff))))) <<< 20) ||| ((((u8 (((v1 >>> 12) &&& 0xff))))) <<< 12) ||| ((((u8 (((v1 >>> 4) &&& 0xff))))) <<< 4) ||| ((((u8 (((((v1) &&& 0xf) <<< 4) ||| ((v2 >>> 46) &&& 0xf)))) >>> 4) &&& 0xf)),
        (((((u8 (((((v1) &&& 0xf) <<< 4) ||| ((v2 >>> 46) &&& 0xf))))) &&& 0xf)) <<< 46) ||| ((((u8 (((v2 >>> 38) &&& 0xff))))) <<< 38) ||| ((((u8 (((v2 >>> 30) &&& 0xff))))) <<< 30) ||| ((((u8 (((v2 >>> 22) &&& 0xff))))) <<< 22) ||| ((((u8 (((v2 >>> 14) &&& 0xff))))) <<< 14) ||| ((((u8 (((v2 >>> 6) &&& 0xff))))) <<< 6) ||| ((((u8 (((((v2) &&& 0x3f) <<< 2) ||| ((v3 >>> 48) &&& 0x3)))) >>> 2) &&& 0x3f)),
        (((((u8 (((((v2) &&& 0x3f) <<< 2) ||| ((v3 >>> 48) &&& 0x3))))) &&& 0x3)) <<< 48) ||| ((((u8 (((v3 >>> 40) &&& 0xff))))) <<< 40) ||| ((((u8 (((v3 >>> 32) &&& 0xff))))) <<< 32) ||| ((((u8 (((v3 >>> 24) &&& 0xff))))) <<< 24) ||| ((((u8 (((v3 >>> 16) &&& 0xff))))) <<< 16) ||| ((((u8 (((v3 >>> 8) &&& 0xff))))) <<< 8) ||| (((u8 (((v3) &&& 0xff))))),
        ((((u8 (((v4 >>> 42) &&& 0xff))))) <<< 42) ||| ((((u8 (((v4 >>> 34) &&& 0xff))))) <<< 34) ||| ((((u8 (((v4 >>> 26) &&& 0xff))))) <<< 26) ||| ((((u8 (((v4 >>> 18) &&& 0xff))))) <<< 18) ||| ((((u8 (((v4 >>> 10) &&& 0xff))))) <<< 10) ||| ((((u8 (((v4 >>> 2) &&& 0xff))))) <<< 2) ||| ((((u8 (((((v4) &&& 0x3) <<< 6) ||| ((v5 >>> 44) &&& 0x3f)))) >>> 6) &&& 0x3)),
        (((((u8 (((((v4) &&& 0x3) <<< 6) ||| ((v5 >>> 44) &&& 0x3f))))) &&& 0x3f)) <<< 44) ||| ((((u8 (((v5 >>> 36) &&& 0xff))))) <<< 36) ||| ((((u8 (((v5 >>> 28) &&& 0xff))))) <<< 28) ||| ((((u8 (((v5 >>> 20) &&& 0xff))))) <<< 20) ||| ((((u8 (((v5 >>> 12) &&& 0xff))))) <<< 12) ||| ((((u8 (((v5 >>> 4) &&& 0xff))))) <<< 4) ||| ((((u8 (((((v5) &&& 0xf) <<< 4) ||| ((v6 >>> 46) &&& 0xf)))) >>> 4) &&& 0xf)),
        (((((u8 (((((v5) &&& 0xf) <<< 4) ||| ((v6 >>> 46) &&& 0xf))))) &&& 0xf)) <<< 46) ||| ((((u8 (((v6 >>> 38) &&& 0xff))))) <<< 38) ||| ((((u8 (((v6 >>> 30) &&& 0xff))))) <<< 30) ||| ((((u8 (((v6 >>> 22) &&& 0xff))))) <<< 22) ||| ((((u8 (((v6 >>> 14) &&& 0xff))))) <<< 14) ||| ((((u8 (((v6 >>> 6) &&& 0xff))))) <<< 6) ||| ((((u8 (((((v6) &&& 0x3f) <<< 2) ||| ((v7 >>> 48) &&& 0x3)))) >>> 2) &&& 0x3f)),
        (((((u8 (((((v6) &&& 0x3f) <<< 2) ||| ((v7 >>> 48) &&& 0x3))))) &&& 0x3)) <<< 48) ||| ((((u8 (((v7 >>> 40) &&& 0xff))))) <<< 40) ||| ((((u8 (((v7 >>> 32) &&& 0xff))))) <<< 32) ||| ((((u8 (((v7 >>> 24) &&& 0xff))))) <<< 24) ||| ((((u8 (((v7 >>> 16) &&& 0xff))))) <<< 16) ||| ((((u8 (((v7 >>> 8) &&& 0xff))))) <<< 8) ||| (((u8 (((v7) &&& 0xff))))) ] := rfl
  rw [key]
  rw [upb50_c0 v0 v1 h0,
    upb50_c1 v0 v1 v2 h1,
    upb50_c2 v1 v2 v3 h2,
    upb50_c3 v2 v3 h3,
    upb50_c4 v4 v5 h4,
    upb50_c5 v4 v5 v6 h5,
    upb50_c6 v5 v6 v7 h6,
    upb50_c7 v6 v7 h7]

theorem upb51_c0 (v0 v1 : Nat) (hv : v0 < 2 ^ 51) :
    ((((u8 (((v0 >>> 43) &&& 0xff))))) <<< 43) ||| ((((u8 (((v0 >>> 35) &&& 0xff))))) <<< 35) ||| ((((u8 (((v0 >>> 27) &&& 0xff))))) <<< 27) ||| ((((u8 (((v0 >>> 19) &&& 0xff))))) <<< 19) ||| ((((u8 (((v0 >>> 11) &&& 0xff))))) <<< 11) ||| ((((u8 (((v0 >>> 3) &&& 0xff))))) <<< 3) ||| ((((u8 (((((v0) &&& 0x7) <<< 5) ||| ((v1 >>> 46) &&& 0x1f)))) >>> 5) &&& 0x7)) = v0 := by
  rw [step_top v0 51 43 rfl hv]
  rw [step_mid v0 43 35 rfl]
  rw [step_mid v0 35 27 rfl]
  rw [step_mid v0 27 19 rfl]
  rw [step_mid v0 19 11 rfl]
  rw [step_mid v0 11 3 rfl]
  rw [step_last v0 (((v1 >>> 46) &&& 0x1f)) 5 3 7 rfl rfl
    (Nat.and_lt_two_pow _ (by norm_num))]

theorem upb51_c1 (v0 v1 v2 : Nat) (hv : v1 < 2 ^ 51) :
    (((((u8 (((((v0) &&& 0x7) <<< 5) ||| ((v1 >>> 46) &&& 0x1f))))) &&& 0x1f)) <<< 46) ||| ((((u8 (((v1 >>> 38) &&& 0xff))))) <<< 38) ||| ((((u8 (((v1 >>> 30) &&& 0xff))))) <<< 30) ||| ((((u8 (((v1 >>> 22) &&& 0xff))))) <<< 22) ||| ((((u8 (((v1 >>> 14) &&& 0xff))))) <<< 14) ||| ((((u8 (((v1 >>> 6) &&& 0xff))))) <<< 6) ||| ((((u8 (((((v1) &&& 0x3f) <<< 2) ||| ((v2 >>> 49) &&& 0x3)))) >>> 2) &&& 0x3f)) = v1 := by
  rw [step_first (((v0) &&& 0x7)) v1 51 46 5 31 rfl rfl (by norm_num) hv]
  rw [step_mid v1 46 38 rfl]
  rw [step_mid v1 38 30 rfl]
  rw [step_mid v1 30 22 rfl]
  rw [step_mid v1 22 14 rfl]
  rw [step_mid v1 14 6 rfl]
  rw [step_last v1 (((v2 >>> 49) &&& 0x3)) 2 6 63 rfl rfl
    (Nat.and_lt_two_pow _ (by norm_num))]

theorem upb51_c2 (v1 v2 v3 : Nat) (hv : v2 < 2 ^ 51) :
    (((((u8 (((((v1) &&& 0x3f) <<< 2) ||| ((v2 >>> 49) &&& 0x3))))) &&& 0x3)) <<< 49) ||| ((((u8 (((v2 >>> 41) &&& 0xff))))) <<< 41) ||| ((((u8 (((v2 >>> 33) &&& 0xff))))) <<< 33) ||| ((((u8 (((v2 >>> 25) &&& 0xff))))) <<< 25) ||| ((((u8 (((v2 >>> 17) &&& 0xff))))) <<< 17) ||| ((((u8 (((v2 >>> 9) &&& 0xff))))) <<< 9) ||| ((((u8 (((v2 >>> 1) &&& 0xff))))) <<< 1) ||| ((((u8 (((((v2) &&& 0x1) <<< 7) ||| ((v3 >>> 44) &&& 0x7f)))) >>> 7) &&& 0x1)) = v2 := by
  rw [step_first (((v1) &&& 0x3f)) v2 51 49 2 3 rfl rfl (by norm_num) hv]
  rw [step_mid v2 49 41 rfl]
  rw [step_mid v2 41 33 rfl]
  rw [step_mid v2 33 25 rfl]
  rw [step_mid v2 25 17 rfl]
  rw [step_mid v2 17 9 rfl]
  rw [step_mid v2 9 1 rfl]
  rw [step_last v2 (((v3 >>> 44) &&& 0x7f)) 7 1 1 rfl rfl
    (Nat.and_lt_two_pow _ (by norm_num))]

theorem upb51_c3 (v2 v3 v4 : Nat) (hv : v3 < 2 ^ 51) :
    (((((u8 (((((v2) &&& 0x1) <<< 7) ||| ((v3 >>> 44) &&& 0x7f))))) &&& 0x7f)) <<< 44) ||| ((((u8 (((v3 >>> 36) &&& 0xff))))) <<< 36) ||| ((((u8 (((v3 >>> 28) &&& 0xff))))) <<< 28) ||| ((((u8 (((v3 >>> 20) &&& 0xff))))) <<< 20) ||| ((((u8 (((v3 >>> 12) &&& 0xff))))) <<< 12) ||| ((((u8 (((v3 >>> 4) &&& 0xff))))) <<< 4) ||| ((((u8 (((((v3) &&& 0xf) <<< 4) ||| ((v4 >>> 47) &&& 0xf)))) >>> 4) &&& 0xf)) = v3 := by
  rw [step_first (((v2) &&& 0x1)) v3 51 44 7 127 rfl rfl (by norm_num) hv]
  rw [step_mid v3 44 36 rfl]
  rw [step_mid v3 36 28 rfl]
  rw [step_mid v3 28 20 rfl]
  rw [step_mid v3 20 12 rfl]
  rw [step_mid v3 12 4 rfl]
  rw [step_last v3 (((v4 >>> 47) &&& 0xf)) 4 4 15 rfl rfl
    (Nat.and_lt_two_pow _ (by norm_num))]

theorem upb51_c4 (v3 v4 v5 : Nat) (hv : v4 < 2 ^ 51) :
    (((((u8 (((((v3) &&& 0xf) <<< 4) ||| ((v4 >>> 47) &&& 0xf))))) &&& 0xf)) <<< 47) ||| ((((u8 (((v4 >>> 39) &&& 0xff))))) <<< 39) ||| ((((u8 (((v4 >>> 31) &&& 0xff))))) <<< 31) ||| ((((u8 (((v4 >>> 23) &&& 0xff))))) <<< 23) ||| ((((u8 (((v4 >>> 15) &&& 0xff))))) <<< 15) ||| ((((u8 (((v4 >>> 7) &&& 0xff))))) <<< 7) ||| ((((u8 (((((v4) &&& 0x7f) <<< 1) ||| ((v5 >>> 50) &&& 0x1)))) >>> 1) &&& 0x7f)) = v4 := by
  rw [step_first (((v3) &&& 0xf)) v4 51 47 4 15 rfl rfl (by norm_num) hv]
  rw [step_mid v4 47 39 rfl]
  rw [step_mid v4 39 31 rfl]
  rw [step_mid v4 31 23 rfl]
  rw [step_mid v4 23 15 rfl]
  rw [step_mid v4 15 7 rfl]
  rw [step_last v4 (((v5 >>> 50) &&& 0x1)) 1 7 127 rfl rfl
    (Nat.and_lt_two_pow _ (by norm_num))]

theorem upb51_c5 (v4 v5 v6 : Nat) (hv : v5 < 2 ^ 51) :
    (((((u8 (((((v4) &&& 0x7f) <<< 1) ||| ((v5 >>> 50) &&& 0x1))))) &&& 0x1)) <<< 50) ||| ((((u8 (((v5 >>> 42) &&& 0xff))))) <<< 42) ||| ((((u8 (((v5 >>> 34) &&& 0xff))))) <<< 34) ||| ((((u8 (((v5 >>> 26) &&& 0xff))))) <<< 26) ||| ((((u8 (((v5 >>> 18) &&& 0xff))))) <<< 18) ||| ((((u8 (((v5 >>> 10) &&& 0xff))))) <<< 10) ||| ((((u8 (((v5 >>> 2) &&& 0xff))))) <<< 2) ||| ((((u8 (((((v5) &&& 0x3) <<< 6) ||| ((v6 >>> 45) &&& 0x3f)))) >>> 6) &&& 0x3)) = v5 := by
  rw [step_first (((v4) &&& 0x7f)) v5 51 50 1 1 rfl rfl (by norm_num) hv]
  rw [step_mid v5 50 42 rfl]
  rw [step_mid v5 42 34 rfl]
  rw [step_mid v5 34 26 rfl]
  rw [step_mid v5 26 18 rfl]
  rw [step_mid v5 18 10 rfl]
  rw [step_mid v5 10 2 rfl]
  rw [step_last v5 (((v6 >>> 45) &&& 0x3f)) 6 2 3 rfl rfl
    (Nat.and_lt_two_pow _ (by norm_num))]

theorem upb51_c6 (v5 v6 v7 : Nat) (hv : v6 < 2 ^ 51) :
    (((((u8 (((((v5) &&& 0x3) <<< 6) ||| ((v6 >>> 45) &&& 0x3f))))) &&& 0x3f)) <<< 45) ||| ((((u8 (((v6 >>> 37) &&& 0xff))))) <<< 37) ||| ((((u8 (((v6 >>> 29) &&& 0xff))))) <<< 29) ||| ((((u8 (((v6 >>> 21) &&& 0xff))))) <<< 21) ||| ((((u8 (((v6 >>> 13) &&& 0xff))))) <<< 13) ||| ((((u8 (((v6 >>> 5) &&& 0xff))))) <<< 5) ||| ((((u8 (((((v6) &&& 0x1f) <<< 3) ||| ((v7 >>> 48) &&& 0x7)))) >>> 3) &&& 0x1f)) = v6 := by
  rw [step_first (((v5) &&& 0x3)) v6 51 45 6 63 rfl rfl (by norm_num) hv]
  rw [step_mid v6 45 37 rfl]
  rw [step_mid v6 37 29 rfl]
  rw [step_mid v6 29 21 rfl]
  rw [step_mid v6 21 13 rfl]
  rw [step_mid v6 13 5 rfl]
  rw [step_last v6 (((v7 >>> 48) &&& 0x7)) 3 5 31 rfl rfl
    (Nat.and_lt_two_pow _ (by norm_num))]

theorem upb51_c7 (v6 v7 : Nat) (hv : v7 < 2 ^ 51) :
    (((((u8 (((((v6) &&& 0x1f) <<< 3) ||| ((v7 >>> 48) &&& 0x7))))) &&& 0x7)) <<< 48) ||| ((((u8 (((v7 >>> 40) &&& 0xff))))) <<< 40) ||| ((((u8 (((v7 >>> 32) &&& 0xff))))) <<< 32) ||| ((((u8 (((v7 >>> 24) &&& 0xff))))) <<< 24) ||| ((((u8 (((v7 >>> 16) &&& 0xff))))) <<< 16) ||| ((((u8 (((v7 >>> 8) &&& 0xff))))) <<< 8) ||| (((u8 (((v7) &&& 0xff))))) = v7 := by
  rw [step_first (((v6) &&& 0x1f)) v7 51 48 3 7 rfl rfl (by norm_num) hv]
  rw [step_mid v7 48 40 rfl]
  rw [step_mid v7 40 32 rfl]
  rw [step_mid v7 32 24 rfl]
  rw [step_mid v7 24 16 rfl]
  rw [step_mid v7 16 8 rfl]
  rw [step_low v7]

theorem unpack_pack_bits_51 (v0 v1 v2 v3 v4 v5 v6 v7 : Nat)
    (h0 : v0 < 2 ^ 51) (h1 : v1 < 2 ^ 51) (h2 : v2 < 2 ^ 51) (h3 : v3 < 2 ^ 51) (h4 : v4 < 2 ^ 51) (h5 : v5 < 2 ^ 51) (h6 : v6 < 2 ^ 51) (h7 : v7 < 2 ^ 51) :
    unpack_bits_51 (pack_bits_51 v0 v1 v2 v3 v4 v5 v6 v7) =
      [v0, v1, v2, v3, v4, v5, v6, v7] := by
  have key : unpack_bits_51 (pack_bits_51 v0 v1 v2 v3 v4 v5 v6 v7) =
      [ ((((u8 (((v0 >>> 43) &&& 0xff))))) <<< 43) ||| ((((u8 (((v0 >>> 35) &&& 0xff))))) <<< 35) ||| ((((u8 (((v0 >>> 27) &&& 0xff))))) <<< 27) ||| ((((u8 (((v0 >>> 19) &&& 0xff))))) <<< 19) ||| ((((u8 (((v0 >>> 11) &&& 0xff))))) <<< 11) ||| ((((u8 (((v0 >>> 3) &&& 0xff))))) <<< 3) ||| ((((u8 (((((v0) &&& 0x7) <<< 5) ||| ((v1 >>> 46) &&& 0x1f)))) >>> 5) &&& 0x7)),
        (((((u8 (((((v0) &&& 0x7) <<< 5) ||| ((v1 >>> 46) &&& 0x1f))))) &&& 0x1f)) <<< 46) ||| ((((u8 (((v1 >>> 38) &&& 0xff))))) <<< 38) ||| ((((u8 (((v1 >>> 30) &&& 0xff))))) <<< 30) ||| ((((u8 (((v1 >>> 22) &&& 0xff))))) <<< 22) ||| ((((u8 (((v1 >>> 14) &&& 0xff))))) <<< 14) ||| ((((u8 (((v1 >>> 6) &&& 0xff))))) <<< 6) ||| ((((u8 (((((v1) &&& 0x3f) <<< 2) ||| ((v2 >>> 49) &&& 0x3)))) >>> 2) &&& 0x3f)),
        (((((u8 (((((v1) &&& 0x3f) <<< 2) ||| ((v2 >>> 49) &&& 0x3))))) &&& 0x3)) <<< 49) ||| ((((u8 (((v2 >>> 41) &&& 0xff))))) <<< 41) ||| ((((u8 (((v2 >>> 33) &&& 0xff))))) <<< 33) ||| ((((u8 (((v2 >>> 25) &&& 0xff))))) <<< 25) ||| ((((u8 (((v2 >>> 17) &&& 0xff))))) <<< 17) ||| ((((u8 (((v2 >>> 9) &&& 0xff))))) <<< 9) ||| ((((u8 (((v2 >>> 1) &&& 0xff))))) <<< 1) ||| ((((u8 (((((v2) &&& 0x1) <<< 7) ||| ((v3 >>> 44) &&& 0x7f)))) >>> 7) &&& 0x1)),
        (((((u8 (((((v2) &&& 0x1) <<< 7) ||| ((v3 >>> 44) &&& 0x7f))))) &&& 0x7f)) <<< 44) ||| ((((u8 (((v3 >>> 36) &&& 0xff))))) <<< 36) ||| ((((u8 (((v3 >>> 28) &&& 0xff))))) <<< 28) ||| ((((u8 (((v3 >>> 20) &&& 0xff))))) <<< 20) ||| ((((u8 (((v3 >>> 12) &&& 0xff))))) <<< 12) ||| ((((u8 (((v3 >>> 4) &&& 0xff))))) <<< 4) ||| ((((u8 (((((v3) &&& 0xf) <<< 4) ||| ((v4 >>> 47) &&& 0xf)))) >>> 4) &&& 0xf)),
        (((((u8 (((((v3) &&& 0xf) <<< 4) ||| ((v4 >>> 47) &&& 0xf))))) &&& 0xf)) <<< 47) ||| ((((u8 (((v4 >>> 39) &&& 0xff))))) <<< 39) ||| ((((u8 (((v4 >>> 31) &&& 0xff))))) <<< 31) ||| ((((u8 (((v4 >>> 23) &&& 0xff))))) <<< 23) ||| ((((u8 (((v4 >>> 15) &&& 0xff))))) <<< 15) ||| ((((u8 (((v4 >>> 7) &&& 0xff))))) <<< 7) ||| ((((u8 (((((v4) &&& 0x7f) <<< 1) ||| ((v5 >>> 50) &&& 0x1)))) >>> 1) &&& 0x7f)),
        (((((u8 (((((v4) &&& 0x7f) <<< 1) ||| ((v5 >>> 50) &&& 0x1))))) &&& 0x1)) <<< 50) ||| ((((u8 (((v5 >>> 42) &&& 0xff))))) <<< 42) ||| ((((u8 (((v5 >>> 34) &&& 0xff))))) <<< 34) ||| ((((u8 (((v5 >>> 26) &&& 0xff))))) <<< 26) ||| ((((u8 (((v5 >>> 18) &&& 0xff))))) <<< 18) ||| ((((u8 (((v5 >>> 10) &&& 0xff))))) <<< 10) ||| ((((u8 (((v5 >>> 2) &&& 0xff))))) <<< 2) ||| ((((u8 (((((v5) &&& 0x3) <<< 6) ||| ((v6 >>> 45) &&& 0x3f)))) >>> 6) &&& 0x3)),
        (((((u8 (((((v5) &&& 0x3) <<< 6) ||| ((v6 >>> 45) &&& 0x3f))))) &&& 0x3f)) <<< 45) ||| ((((u8 (((v6 >>> 37) &&& 0xff))))) <<< 37) ||| ((((u8 (((v6 >>> 29) &&& 0xff))))) <<< 29) ||| ((((u8 (((v6 >>> 21) &&& 0xff))))) <<< 21) ||| ((((u8 (((v6 >>> 13) &&& 0xff))))) <<< 13) ||| ((((u8 (((v6 >>> 5) &&& 0xff))))) <<< 5) ||| ((((u8 (((((v6) &&& 0x1f) <<< 3) ||| ((v7 >>> 48) &&& 0x7)))) >>> 3) &&& 0x1f)),
        (((((u8 (((((v6) &&& 0x1f) <<< 3) ||| ((v7 >>> 48) &&& 0x7))))) &&& 0x7)) <<< 48) ||| ((((u8 (((v7 >>> 40) &&& 0xff))))) <<< 40) ||| ((((u8 (((v7 >>> 32) &&& 0xff))))) <<< 32) ||| ((((u8 (((v7 >>> 24) &&& 0xff))))) <<< 24) ||| ((((u8 (((v7 >>> 16) &&& 0xff))))) <<< 16) ||| ((((u8 (((v7 >>> 8) &&& 0xff))))) <<< 8) ||| (((u8 (((v7) &&& 0xff))))) ] := rfl
  rw [key]
  rw [upb51_c0 v0 v1 h0,
    upb51_c1 v0 v1 v2 h1,
    upb51_c2 v1 v2 v3 h2,
    upb51_c3 v2 v3 v4 h3,
    upb51_c4 v3 v4 v5 h4,
    upb51_c5 v4 v5 v6 h5,
    upb51_c6 v5 v6 v7 h6,
    upb51_c7 v6 v7 h7]

theorem upb52_c0 (v0 v1 : Nat) (hv : v0 < 2 ^ 52) :
    ((((u8 (((v0 >>> 44) &&& 0xff))))) <<< 44) ||| ((((u8 (((v0 >>> 36) &&& 0xff))))) <<< 36) ||| ((((u8 (((v0 >>> 28) &&& 0xff))))) <<< 28) ||| ((((u8 (((v0 >>> 20) &&& 0xff))))) <<< 20) ||| ((((u8 (((v0 >>> 12) &&& 0xff))))) <<< 12) ||| ((((u8 (((v0 >>> 4) &&& 0xff))))) <<< 4) ||| ((((u8 (((((v0) &&& 0xf) <<< 4) ||| ((v1 >>> 48) &&& 0xf)))) >>> 4) &&& 0xf)) = v0 := by
  rw [step_top v0 52 44 rfl hv]
  rw [step_mid v0 44 36 rfl]
  rw [step_mid v0 36 28 rfl]
  rw [step_mid v0 28 20 rfl]
  rw [step_mid v0 20 12 rfl]
  rw [step_mid v0 12 4 rfl]
  rw [step_last v0 (((v1 >>> 48) &&& 0xf)) 4 4 15 rfl rfl
    (Nat.and_lt_two_pow _ (by norm_num))]

theorem upb52_c1 (v0 v1 : Nat) (hv : v1 < 2 ^ 52) :
    (((((u8 (((((v0) &&& 0xf) <<< 4) ||| ((v1 >>> 48) &&& 0xf))))) &&& 0xf)) <<< 48) ||| ((((u8 (((v1 >>> 40) &&& 0xff))))) <<< 40) ||| ((((u8 (((v1 >>> 32) &&& 0xff))))) <<< 32) ||| ((((u8 (((v1 >>> 24) &&& 0xff))))) <<< 24) ||| ((((u8 (((v1 >>> 16) &&& 0xff))))) <<< 16) ||| ((((u8 (((v1 >>> 8) &&& 0xff))))) <<< 8) ||| (((u8 (((v1) &&& 0xff))))) = v1 := by
  rw [step_first (((v0) &&& 0xf)) v1 52 48 4 15 rfl rfl (by norm_num) hv]
  rw [step_mid v1 48 40 rfl]
  rw [step_mid v1 40 32 rfl]
  rw [step_mid v1 32 24 rfl]
  rw [step_mid v1 24 16 rfl]
  rw [step_mid v1 16 8 rfl]
  rw [step_low v1]

theorem upb52_c2 (v2 v3 : Nat) (hv : v2 < 2 ^ 52) :
    ((((u8 (((v2 >>> 44) &&& 0xff))))) <<< 44) ||| ((((u8 (((v2 >>> 36) &&& 0xff))))) <<< 36) ||| ((((u8 (((v2 >>> 28) &&& 0xff))))) <<< 28) ||| ((((u8 (((v2 >>> 20) &&& 0xff))))) <<< 20) ||| ((((u8 (((v2 >>> 12) &&& 0xff))))) <<< 12) ||| ((((u8 (((v2 >>> 4) &&& 0xff))))) <<< 4) ||| ((((u8 (((((v2) &&& 0xf) <<< 4) ||| ((v3 >>> 48) &&& 0xf)))) >>> 4) &&& 0xf)) = v2 := by
  rw [step_top v2 52 44 rfl hv]
  rw [step_mid v2 44 36 rfl]
  rw [step_mid v2 36 28 rfl]
  rw [step_mid v2 28 20 rfl]
  rw [step_mid v2 20 12 rfl]
  rw [step_mid v2 12 4 rfl]
  rw [step_last v2 (((v3 >>> 48) &&& 0xf)) 4 4 15 rfl rfl
    (Nat.and_lt_two_pow _ (by norm_num))]

theorem upb52_c3 (v2 v3 : Nat) (hv : v3 < 2 ^ 52) :
    (((((u8 (((((v2) &&& 0xf) <<< 4) ||| ((v3 >>> 48) &&& 0xf))))) &&& 0xf)) <<< 48) ||| ((((u8 (((v3 >>> 40) &&& 0xff))))) <<< 40) ||| ((((u8 (((v3 >>> 32) &&& 0xff))))) <<< 32) ||| ((((u8 (((v3 >>> 24) &&& 0xff))))) <<< 24) ||| ((((u8 (((v3 >>> 16) &&& 0xff))))) <<< 16) ||| ((((u8 (((v3 >>> 8) &&& 0xff))))) <<< 8) ||| (((u8 (((v3) &&& 0xff))))) = v3 := by
  rw [step_first (((v2) &&& 0xf)) v3 52 48 4 15 rfl rfl (by norm_num) hv]
  rw [step_mid v3 48 40 rfl]
  rw [step_mid v3 40 32 rfl]
  rw [step_mid v3 32 24 rfl]
  rw [step_mid v3 24 16 rfl]
  rw [step_mid v3 16 8 rfl]
  rw [step_low v3]

theorem upb52_c4 (v4 v5 : Nat) (hv : v4 < 2 ^ 52) :
    ((((u8 (((v4 >>> 44) &&& 0xff))))) <<< 44) ||| ((((u8 (((v4 >>> 36) &&& 0xff))))) <<< 36) ||| ((((u8 (((v4 >>> 28) &&& 0xff))))) <<< 28) ||| ((((u8 (((v4 >>> 20) &&& 0xff))))) <<< 20) ||| ((((u8 (((v4 >>> 12) &&& 0xff))))) <<< 12) ||| ((((u8 (((v4 >>> 4) &&& 0xff))))) <<< 4) ||| ((((u8 (((((v4) &&& 0xf) <<< 4) ||| ((v5 >>> 48) &&& 0xf)))) >>> 4) &&& 0xf)) = v4 := by
  rw [step_top v4 52 44 rfl hv]
  rw [step_mid v4 44 36 rfl]
  rw [step_mid v4 36 28 rfl]
  rw [step_mid v4 28 20 rfl]
  rw [step_mid v4 20 12 rfl]
  rw [step_mid v4 12 4 rfl]
  rw [step_last v4 (((v5 >>> 48) &&& 0xf)) 4 4 15 rfl rfl
    (Nat.and_lt_two_pow _ (by norm_num))]

theorem upb52_c5 (v4 v5 : Nat) (hv : v5 < 2 ^ 52) :
    (((((u8 (((((v4) &&& 0xf) <<< 4) ||| ((v5 >>> 48) &&& 0xf))))) &&& 0xf)) <<< 48) ||| ((((u8 (((v5 >>> 40) &&& 0xff))))) <<< 40) ||| ((((u8 (((v5 >>> 32) &&& 0xff))))) <<< 32) ||| ((((u8 (((v5 >>> 24) &&& 0xff))))) <<< 24) ||| ((((u8 (((v5 >>> 16) &&& 0xff))))) <<< 16) ||| ((((u8 (((v5 >>> 8) &&& 0xff))))) <<< 8) ||| (((u8 (((v5) &&& 0xff))))) = v5 := by
  rw [step_first (((v4) &&& 0xf)) v5 52 48 4 15 rfl rfl (by norm_num) hv]
  rw [step_mid v5 48 40 rfl]
  rw [step_mid v5 40 32 rfl]
  rw [step_mid v5 32 24 rfl]
  rw [step_mid v5 24 16 rfl]
  rw [step_mid v5 16 8 rfl]
  rw [step_low v5]

theorem upb52_c6 (v6 v7 : Nat) (hv : v6 < 2 ^ 52) :
    ((((u8 (((v6 >>> 44) &&& 0xff))))) <<< 44) ||| ((((u8 (((v6 >>> 36) &&& 0xff))))) <<< 36) ||| ((((u8 (((v6 >>> 28) &&& 0xff))))) <<< 28) ||| ((((u8 (((v6 >>> 20) &&& 0xff))))) <<< 20) ||| ((((u8 (((v6 >>> 12) &&& 0xff))))) <<< 12) ||| ((((u8 (((v6 >>> 4) &&& 0xff))))) <<< 4) ||| ((((u8 (((((v6) &&& 0xf) <<< 4) ||| ((v7 >>> 48) &&& 0xf)))) >>> 4) &&& 0xf)) = v6 := by
  rw [step_top v6 52 44 rfl hv]
  rw [step_mid v6 44 36 rfl]
  rw [step_mid v6 36 28 rfl]
  rw [step_mid v6 28 20 rfl]
  rw [step_mid v6 20 12 rfl]
  rw [step_mid v6 12 4 rfl]
  rw [step_last v6 (((v7 >>> 48) &&& 0xf)) 4 4 15 rfl rfl
    (Nat.and_lt_two_pow _ (by norm_num))]

theorem upb52_c7 (v6 v7 : Nat) (hv : v7 < 2 ^ 52) :
    (((((u8 (((((v6) &&& 0xf) <<< 4) ||| ((v7 >>> 48) &&& 0xf))))) &&& 0xf)) <<< 48) ||| ((((u8 (((v7 >>> 40) &&& 0xff))))) <<< 40) ||| ((((u8 (((v7 >>> 32) &&& 0xff))))) <<< 32) ||| ((((u8 (((v7 >>> 24) &&& 0xff))))) <<< 24) ||| ((((u8 (((v7 >>> 16) &&& 0xff))))) <<< 16) ||| ((((u8 (((v7 >>> 8) &&& 0xff))))) <<< 8) ||| (((u8 (((v7) &&& 0xff))))) = v7 := by
  rw [step_first (((v6) &&& 0xf)) v7 52 48 4 15 rfl rfl (by norm_num) hv]
  rw [step_mid v7 48 40 rfl]
  rw [step_mid v7 40 32 rfl]
  rw [step_mid v7 32 24 rfl]
  rw [step_mid v7 24 16 rfl]
  rw [step_mid v7 16 8 rfl]
  rw [step_low v7]

theorem unpack_pack_bits_52 (v0 v1 v2 v3 v4 v5 v6 v7 : Nat)
    (h0 : v0 < 2 ^ 52) (h1 : v1 < 2 ^ 52) (h2 : v2 < 2 ^ 52) (h3 : v3 < 2 ^ 52) (h4 : v4 < 2 ^ 52) (h5 : v5 < 2 ^ 52) (h6 : v6 < 2 ^ 52) (h7 : v7 < 2 ^ 52) :
    unpack_bits_52 (pack_bits_52 v0 v1 v2 v3 v4 v5 v6 v7) =
      [v0, v1, v2, v3, v4, v5, v6, v7] := by
  have key : unpack_bits_52 (pack_bits_52 v0 v1 v2 v3 v4 v5 v6 v7) =
      [ ((((u8 (((v0 >>> 44) &&& 0xff))))) <<< 44) ||| ((((u8 (((v0 >>> 36) &&& 0xff))))) <<< 36) ||| ((((u8 (((v0 >>> 28) &&& 0xff))))) <<< 28) ||| ((((u8 (((v0 >>> 20) &&& 0xff))))) <<< 20) ||| ((((u8 (((v0 >>> 12) &&& 0xff))))) <<< 12) ||| ((((u8 (((v0 >>> 4) &&& 0xff))))) <<< 4) ||| ((((u8 (((((v0) &&& 0xf) <<< 4) ||| ((v1 >>> 48) &&& 0xf)))) >>> 4) &&& 0xf)),
        (((((u8 (((((v0) &&& 0xf) <<< 4) ||| ((v1 >>> 48) &&& 0xf))))) &&& 0xf)) <<< 48) ||| ((((u8 (((v1 >>> 40) &&& 0xff))))) <<< 40) ||| ((((u8 (((v1 >>> 32) &&& 0xff))))) <<< 32) ||| ((((u8 (((v1 >>> 24) &&& 0xff))))) <<< 24) ||| ((((u8 (((v1 >>> 16) &&& 0xff))))) <<< 16) ||| ((((u8 (((v1 >>> 8) &&& 0xff))))) <<< 8) ||| (((u8 (((v1) &&& 0xff))))),
        ((((u8 (((v2 >>> 44) &&& 0xff))))) <<< 44) ||| ((((u8 (((v2 >>> 36) &&& 0xff))))) <<< 36) ||| ((((u8 (((v2 >>> 28) &&& 0xff))))) <<< 28) ||| ((((u8 (((v2 >>> 20) &&& 0xff))))) <<< 20) ||| ((((u8 (((v2 >>> 12) &&& 0xff))))) <<< 12) ||| ((((u8 (((v2 >>> 4) &&& 0xff))))) <<< 4) ||| ((((u8 (((((v2) &&& 0xf) <<< 4) ||| ((v3 >>> 48) &&& 0xf)))) >>> 4) &&& 0xf)),
        (((((u8 (((((v2) &&& 0xf) <<< 4) ||| ((v3 >>> 48) &&& 0xf))))) &&& 0xf)) <<< 48) ||| ((((u8 (((v3 >>> 40) &&& 0xff))))) <<< 40) ||| ((((u8 (((v3 >>> 32) &&& 0xff))))) <<< 32) ||| ((((u8 (((v3 >>> 24) &&& 0xff))))) <<< 24) ||| ((((u8 (((v3 >>> 16) &&& 0xff))))) <<< 16) ||| ((((u8 (((v3 >>> 8) &&& 0xff))))) <<< 8) ||| (((u8 (((v3) &&& 0xff))))),
        ((((u8 (((v4 >>> 44) &&& 0xff))))) <<< 44) ||| ((((u8 (((v4 >>> 36) &&& 0xff))))) <<< 36) ||| ((((u8 (((v4 >>> 28) &&& 0xff))))) <<< 28) ||| ((((u8 (((v4 >>> 20) &&& 0xff))))) <<< 20) ||| ((((u8 (((v4 >>> 12) &&& 0xff))))) <<< 12) ||| ((((u8 (((v4 >>> 4) &&& 0xff))))) <<< 4) ||| ((((u8 (((((v4) &&& 0xf) <<< 4) ||| ((v5 >>> 48) &&& 0xf)))) >>> 4) &&& 0xf)),
        (((((u8 (((((v4) &&& 0xf) <<< 4) ||| ((v5 >>> 48) &&& 0xf))))) &&& 0xf)) <<< 48) ||| ((((u8 (((v5 >>> 40) &&& 0xff))))) <<< 40) ||| ((((u8 (((v5 >>> 32) &&& 0xff))))) <<< 32) ||| ((((u8 (((v5 >>> 24) &&& 0xff))))) <<< 24) ||| ((((u8 (((v5 >>> 16) &&& 0xff))))) <<< 16) ||| ((((u8 (((v5 >>> 8) &&& 0xff))))) <<< 8) ||| (((u8 (((v5) &&& 0xff))))),
        ((((u8 (((v6 >>> 44) &&& 0xff))))) <<< 44) ||| ((((u8 (((v6 >>> 36) &&& 0xff))))) <<< 36) ||| ((((u8 (((v6 >>> 28) &&& 0xff))))) <<< 28) ||| ((((u8 (((v6 >>> 20) &&& 0xff))))) <<< 20) ||| ((((u8 (((v6 >>> 12) &&& 0xff))))) <<< 12) ||| ((((u8 (((v6 >>> 4) &&& 0xff))))) <<< 4) ||| ((((u8 (((((v6) &&& 0xf) <<< 4) ||| ((v7 >>> 48) &&& 0xf)))) >>> 4) &&& 0xf)),
        (((((u8 (((((v6) &&& 0xf) <<< 4) ||| ((v7 >>> 48) &&& 0xf))))) &&& 0xf)) <<< 48) ||| ((((u8 (((v7 >>> 40) &&& 0xff))))) <<< 40) ||| ((((u8 (((v7 >>> 32) &&& 0xff))))) <<< 32) ||| ((((u8 (((v7 >>> 24) &&& 0xff))))) <<< 24) ||| ((((u8 (((v7 >>> 16) &&& 0xff))))) <<< 16) ||| ((((u8 (((v7 >>> 8) &&& 0xff))))) <<< 8) ||| (((u8 (((v7) &&& 0xff))))) ] := rfl
  rw [key]
  rw [upb52_c0 v0 v1 h0,
    upb52_c1 v0 v1 h1,
    upb52_c2 v2 v3 h2,
    upb52_c3 v2 v3 h3,
    upb52_c4 v4 v5 h4,
    upb52_c5 v4 v5 h5,
    upb52_c6 v6 v7 h6,
    upb52_c7 v6 v7 h7]

theorem upb53_c0 (v0 v1 : Nat) (hv : v0 < 2 ^ 53) :
    ((((u8 (((v0 >>> 45) &&& 0xff))))) <<< 45) ||| ((((u8 (((v0 >>> 37) &&& 0xff))))) <<< 37) ||| ((((u8 (((v0 >>> 29) &&& 0xff))))) <<< 29) ||| ((((u8 (((v0 >>> 21) &&& 0xff))))) <<< 21) ||| ((((u8 (((v0 >>> 13) &&& 0xff))))) <<< 13) ||| ((((u8 (((v0 >>> 5) &&& 0xff))))) <<< 5) ||| ((((u8 (((((v0) &&& 0x1f) <<< 3) ||| ((v1 >>> 50) &&& 0x7)))) >>> 3) &&& 0x1f)) = v0 := by
  rw [step_top v0 53 45 rfl hv]
  rw [step_mid v0 45 37 rfl]
  rw [step_mid v0 37 29 rfl]
  rw [step_mid v0 29 21 rfl]
  rw [step_mid v0 21 13 rfl]
  rw [step_mid v0 13 5 rfl]
  rw [step_last v0 (((v1 >>> 50) &&& 0x7)) 3 5 31 rfl rfl
    (Nat.and_lt_two_pow _ (by norm_num))]

theorem upb53_c1 (v0 v1 v2 : Nat) (hv : v1 < 2 ^ 53) :
    (((((u8 (((((v0) &&& 0x1f) <<< 3) ||| ((v1 >>> 50) &&& 0x7))))) &&& 0x7)) <<< 50) ||| ((((u8 (((v1 >>> 42) &&& 0xff))))) <<< 42) ||| ((((u8 (((v1 >>> 34) &&& 0xff))))) <<< 34) ||| ((((u8 (((v1 >>> 26) &&& 0xff))))) <<< 26) ||| ((((u8 (((v1 >>> 18) &&& 0xff))))) <<< 18) ||| ((((u8 (((v1 >>> 10) &&& 0xff))))) <<< 10) ||| ((((u8 (((v1 >>> 2) &&& 0xff))))) <<< 2) ||| ((((u8 (((((v1) &&& 0x3) <<< 6) ||| ((v2 >>> 47) &&& 0x3f)))) >>> 6) &&& 0x3)) = v1 := by
  rw [step_first (((v0) &&& 0x1f)) v1 53 50 3 7 rfl rfl (by norm_num) hv]
  rw [step_mid v1 50 42 rfl]
  rw [step_mid v1 42 34 rfl]
  rw [step_mid v1 34 26 rfl]
  rw [step_mid v1 26 18 rfl]
  rw [step_mid v1 18 10 rfl]
  rw [step_mid v1 10 2 rfl]
  rw [step_last v1 (((v2 >>> 47) &&& 0x3f)) 6 2 3 rfl rfl
    (Nat.and_lt_two_pow _ (by norm_num))]

theorem upb53_c2 (v1 v2 v3 : Nat) (hv : v2 < 2 ^ 53) :
    (((((u8 (((((v1) &&& 0x3) <<< 6) ||| ((v2 >>> 47) &&& 0x3f))))) &&& 0x3f)) <<< 47) ||| ((((u8 (((v2 >>> 39) &&& 0xff))))) <<< 39) ||| ((((u8 (((v2 >>> 31) &&& 0xff))))) <<< 31) ||| ((((u8 (((v2 >>> 23) &&& 0xff))))) <<< 23) ||| ((((u8 (((v2 >>> 15) &&& 0xff))))) <<< 15) ||| ((((u8 (((v2 >>> 7) &&& 0xff))))) <<< 7) ||| ((((u8 (((((v2) &&& 0x7f) <<< 1) ||| ((v3 >>> 52) &&& 0x1)))) >>> 1) &&& 0x7f)) = v2 := by
  rw [step_first (((v1) &&& 0x3)) v2 53 47 6 63 rfl rfl (by norm_num) hv]
  rw [step_mid v2 47 39 rfl]
  rw [step_mid v2 39 31 rfl]
  rw [step_mid v2 31 23 rfl]
  rw [step_mid v2 23 15 rfl]
  rw [step_mid v2 15 7 rfl]
  rw [step_last v2 (((v3 >>> 52) &&& 0x1)) 1 7 127 rfl rfl
    (Nat.and_lt_two_pow _ (by norm_num))]

theorem upb53_c3 (v2 v3 v4 : Nat) (hv : v3 < 2 ^ 53) :
    (((((u8 (((((v2) &&& 0x7f) <<< 1) ||| ((v3 >>> 52) &&& 0x1))))) &&& 0x1)) <<< 52) ||| ((((u8 (((v3 >>> 44) &&& 0xff))))) <<< 44) ||| ((((u8 (((v3 >>> 36) &&& 0xff))))) <<< 36) ||| ((((u8 (((v3 >>> 28) &&& 0xff))))) <<< 28) ||| ((((u8 (((v3 >>> 20) &&& 0xff))))) <<< 20) ||| ((((u8 (((v3 >>> 12) &&& 0xff))))) <<< 12) ||| ((((u8 (((v3 >>> 4) &&& 0xff))))) <<< 4) ||| ((((u8 (((((v3) &&& 0xf) <<< 4) ||| ((v4 >>> 49) &&& 0xf)))) >>> 4) &&& 0xf)) = v3 := by
  rw [step_first (((v2) &&& 0x7f)) v3 53 52 1 1 rfl rfl (by norm_num) hv]
  rw [step_mid v3 52 44 rfl]
  rw [step_mid v3 44 36 rfl]
  rw [step_mid v3 36 28 rfl]
  rw [step_mid v3 28 20 rfl]
  rw [step_mid v3 20 12 rfl]
  rw [step_mid v3 12 4 rfl]
  rw [step_last v3 (((v4 >>> 49) &&& 0xf)) 4 4 15 rfl rfl
    (Nat.and_lt_two_pow _ (by norm_num))]

theorem upb53_c4 (v3 v4 v5 : Nat) (hv : v4 < 2 ^ 53) :
    (((((u8 (((((v3) &&& 0xf) <<< 4) ||| ((v4 >>> 49) &&& 0xf))))) &&& 0xf)) <<< 49) ||| ((((u8 (((v4 >>> 41) &&& 0xff))))) <<< 41) ||| ((((u8 (((v4 >>> 33) &&& 0xff))))) <<< 33) ||| ((((u8 (((v4 >>> 25) &&& 0xff))))) <<< 25) ||| ((((u8 (((v4 >>> 17) &&& 0xff))))) <<< 17) ||| ((((u8 (((v4 >>> 9) &&& 0xff))))) <<< 9) ||| ((((u8 (((v4 >>> 1) &&& 0xff))))) <<< 1) ||| ((((u8 (((((v4) &&& 0x1) <<< 7) ||| ((v5 >>> 46) &&& 0x7f)))) >>> 7) &&& 0x1)) = v4 := by
  rw [step_first (((v3) &&& 0xf)) v4 53 49 4 15 rfl rfl (by norm_num) hv]
  rw [step_mid v4 49 41 rfl]
  rw [step_mid v4 41 33 rfl]
  rw [step_mid v4 33 25 rfl]
  rw [step_mid v4 25 17 rfl]
  rw [step_mid v4 17 9 rfl]
  rw [step_mid v4 9 1 rfl]
  rw [step_last v4 (((v5 >>> 46) &&& 0x7f)) 7 1 1 rfl rfl
    (Nat.and_lt_two_pow _ (by norm_num))]

theorem upb53_c5 (v4 v5 v6 : Nat) (hv : v5 < 2 ^ 53) :
    (((((u8 (((((v4) &&& 0x1) <<< 7) ||| ((v5 >>> 46) &&& 0x7f))))) &&& 0x7f)) <<< 46) ||| ((((u8 (((v5 >>> 38) &&& 0xff))))) <<< 38) ||| ((((u8 (((v5 >>> 30) &&& 0xff))))) <<< 30) ||| ((((u8 (((v5 >>> 22) &&& 0xff))))) <<< 22) ||| ((((u8 (((v5 >>> 14) &&& 0xff))))) <<< 14) ||| ((((u8 (((v5 >>> 6) &&& 0xff))))) <<< 6) ||| ((((u8 (((((v5) &&& 0x3f) <<< 2) ||| ((v6 >>> 51) &&& 0x3)))) >>> 2) &&& 0x3f)) = v5 := by
  rw [step_first (((v4) &&& 0x1)) v5 53 46 7 127 rfl rfl (by norm_num) hv]
  rw [step_mid v5 46 38 rfl]
  rw [step_mid v5 38 30 rfl]
  rw [step_mid v5 30 22 rfl]
  rw [step_mid v5 22 14 rfl]
  rw [step_mid v5 14 6 rfl]
  rw [step_last v5 (((v6 >>> 51) &&& 0x3)) 2 6 63 rfl rfl
    (Nat.and_lt_two_pow _ (by norm_num))]

theorem upb53_c6 (v5 v6 v7 : Nat) (hv : v6 < 2 ^ 53) :
    (((((u8 (((((v5) &&& 0x3f) <<< 2) ||| ((v6 >>> 51) &&& 0x3))))) &&& 0x3)) <<< 51) ||| ((((u8 (((v6 >>> 43) &&& 0xff))))) <<< 43) ||| ((((u8 (((v6 >>> 35) &&& 0xff))))) <<< 35) ||| ((((u8 (((v6 >>> 27) &&& 0xff))))) <<< 27) ||| ((((u8 (((v6 >>> 19) &&& 0xff))))) <<< 19) ||| ((((u8 (((v6 >>> 11) &&& 0xff))))) <<< 11) ||| ((((u8 (((v6 >>> 3) &&& 0xff))))) <<< 3) ||| ((((u8 (((((v6) &&& 0x7) <<< 5) ||| ((v7 >>> 48) &&& 0x1f)))) >>> 5) &&& 0x7)) = v6 := by
  rw [step_first (((v5) &&& 0x3f)) v6 53 51 2 3 rfl rfl (by norm_num) hv]
  rw [step_mid v6 51 43 rfl]
  rw [step_mid v6 43 35 rfl]
  rw [step_mid v6 35 27 rfl]
  rw [step_mid v6 27 19 rfl]
  rw [step_mid v6 19 11 rfl]
  rw [step_mid v6 11 3 rfl]
  rw [step_last v6 (((v7 >>> 48) &&& 0x1f)) 5 3 7 rfl rfl
    (Nat.and_lt_two_pow _ (by norm_num))]

theorem upb53_c7 (v6 v7 : Nat) (hv : v7 < 2 ^ 53) :
    (((((u8 (((((v6) &&& 0x7) <<< 5) ||| ((v7 >>> 48) &&& 0x1f))))) &&& 0x1f)) <<< 48) ||| ((((u8 (((v7 >>> 40) &&& 0xff))))) <<< 40) ||| ((((u8 (((v7 >>> 32) &&& 0xff))))) <<< 32) ||| ((((u8 (((v7 >>> 24) &&& 0xff))))) <<< 24) ||| ((((u8 (((v7 >>> 16) &&& 0xff))))) <<< 16) ||| ((((u8 (((v7 >>> 8) &&& 0xff))))) <<< 8) ||| (((u8 (((v7) &&& 0xff))))) = v7 := by
  rw [step_first (((v6) &&& 0x7)) v7 53 48 5 31 rfl rfl (by norm_num) hv]
  rw [step_mid v7 48 40 rfl]
  rw [step_mid v7 40 32 rfl]
  rw [step_mid v7 32 24 rfl]
  rw [step_mid v7 24 16 rfl]
  rw [step_mid v7 16 8 rfl]
  rw [step_low v7]

theorem unpack_pack_bits_53 (v0 v1 v2 v3 v4 v5 v6 v7 : Nat)
    (h0 : v0 < 2 ^ 53) (h1 : v1 < 2 ^ 53) (h2 : v2 < 2 ^ 53) (h3 : v3 < 2 ^ 53) (h4 : v4 < 2 ^ 53) (h5 : v5 < 2 ^ 53) (h6 : v6 < 2 ^ 53) (h7 : v7 < 2 ^ 53) :
    unpack_bits_53 (pack_bits_53 v0 v1 v2 v3 v4 v5 v6 v7) =
      [v0, v1, v2, v3, v4, v5, v6, v7] := by
  have key : unpack_bits_53 (pack_bits_53 v0 v1 v2 v3 v4 v5 v6 v7) =
      [ ((((u8 (((v0 >>> 45) &&& 0xff))))) <<< 45) ||| ((((u8 (((v0 >>> 37) &&& 0xff))))) <<< 37) ||| ((((u8 (((v0 >>> 29) &&& 0xff))))) <<< 29) ||| ((((u8 (((v0 >>> 21) &&& 0xff))))) <<< 21) ||| ((((u8 (((v0 >>> 13) &&& 0xff))))) <<< 13) ||| ((((u8 (((v0 >>> 5) &&& 0xff))))) <<< 5) ||| ((((u8 (((((v0) &&& 0x1f) <<< 3) ||| ((v1 >>> 50) &&& 0x7)))) >>> 3) &&& 0x1f)),
        (((((u8 (((((v0) &&& 0x1f) <<< 3) ||| ((v1 >>> 50) &&& 0x7))))) &&& 0x7)) <<< 50) ||| ((((u8 (((v1 >>> 42) &&& 0xff))))) <<< 42) ||| ((((u8 (((v1 >>> 34) &&& 0xff))))) <<< 34) ||| ((((u8 (((v1 >>> 26) &&& 0xff))))) <<< 26) ||| ((((u8 (((v1 >>> 18) &&& 0xff))))) <<< 18) ||| ((((u8 (((v1 >>> 10) &&& 0xff))))) <<< 10) ||| ((((u8 (((v1 >>> 2) &&& 0xff))))) <<< 2) ||| ((((u8 (((((v1) &&& 0x3) <<< 6) ||| ((v2 >>> 47) &&& 0x3f)))) >>> 6) &&& 0x3)),
        (((((u8 (((((v1) &&& 0x3) <<< 6) ||| ((v2 >>> 47) &&& 0x3f))))) &&& 0x3f)) <<< 47) ||| ((((u8 (((v2 >>> 39) &&& 0xff))))) <<< 39) ||| ((((u8 (((v2 >>> 31) &&& 0xff))))) <<< 31) ||| ((((u8 (((v2 >>> 23) &&& 0xff))))) <<< 23) ||| ((((u8 (((v2 >>> 15) &&& 0xff))))) <<< 15) ||| ((((u8 (((v2 >>> 7) &&& 0xff))))) <<< 7) ||| ((((u8 (((((v2) &&& 0x7f) <<< 1) ||| ((v3 >>> 52) &&& 0x1)))) >>> 1) &&& 0x7f)),
        (((((u8 (((((v2) &&& 0x7f) <<< 1) ||| ((v3 >>> 52) &&& 0x1))))) &&& 0x1)) <<< 52) ||| ((((u8 (((v3 >>> 44) &&& 0xff))))) <<< 44) ||| ((((u8 (((v3 >>> 36) &&& 0xff))))) <<< 36) ||| ((((u8 (((v3 >>> 28) &&& 0xff))))) <<< 28) ||| ((((u8 (((v3 >>> 20) &&& 0xff))))) <<< 20) ||| ((((u8 (((v3 >>> 12) &&& 0xff))))) <<< 12) ||| ((((u8 (((v3 >>> 4) &&& 0xff))))) <<< 4) ||| ((((u8 (((((v3) &&& 0xf) <<< 4) ||| ((v4 >>> 49) &&& 0xf)))) >>> 4) &&& 0xf)),
        (((((u8 (((((v3) &&& 0xf) <<< 4) ||| ((v4 >>> 49) &&& 0xf))))) &&& 0xf)) <<< 49) ||| ((((u8 (((v4 >>> 41) &&& 0xff))))) <<< 41) ||| ((((u8 (((v4 >>> 33) &&& 0xff))))) <<< 33) ||| ((((u8 (((v4 >>> 25) &&& 0xff))))) <<< 25) ||| ((((u8 (((v4 >>> 17) &&& 0xff))))) <<< 17) ||| ((((u8 (((v4 >>> 9) &&& 0xff))))) <<< 9) ||| ((((u8 (((v4 >>> 1) &&& 0xff))))) <<< 1) ||| ((((u8 (((((v4) &&& 0x1) <<< 7) ||| ((v5 >>> 46) &&& 0x7f)))) >>> 7) &&& 0x1)),
        (((((u8 (((((v4) &&& 0x1) <<< 7) ||| ((v5 >>> 46) &&& 0x7f))))) &&& 0x7f)) <<< 46) ||| ((((u8 (((v5 >>> 38) &&& 0xff))))) <<< 38) ||| ((((u8 (((v5 >>> 30) &&& 0xff))))) <<< 30) ||| ((((u8 (((v5 >>> 22) &&& 0xff))))) <<< 22) ||| ((((u8 (((v5 >>> 14) &&& 0xff))))) <<< 14) ||| ((((u8 (((v5 >>> 6) &&& 0xff))))) <<< 6) ||| ((((u8 (((((v5) &&& 0x3f) <<< 2) ||| ((v6 >>> 51) &&& 0x3)))) >>> 2) &&& 0x3f)),
        (((((u8 (((((v5) &&& 0x3f) <<< 2) ||| ((v6 >>> 51) &&& 0x3))))) &&& 0x3)) <<< 51) ||| ((((u8 (((v6 >>> 43) &&& 0xff))))) <<< 43) ||| ((((u8 (((v6 >>> 35) &&& 0xff))))) <<< 35) ||| ((((u8 (((v6 >>> 27) &&& 0xff))))) <<< 27) ||| ((((u8 (((v6 >>> 19) &&& 0xff))))) <<< 19) ||| ((((u8 (((v6 >>> 11) &&& 0xff))))) <<< 11) ||| ((((u8 (((v6 >>> 3) &&& 0xff))))) <<< 3) ||| ((((u8 (((((v6) &&& 0x7) <<< 5) ||| ((v7 >>> 48) &&& 0x1f)))) >>> 5) &&& 0x7)),
        (((((u8 (((((v6) &&& 0x7) <<< 5) ||| ((v7 >>> 48) &&& 0x1f))))) &&& 0x1f)) <<< 48) ||| ((((u8 (((v7 >>> 40) &&& 0xff))))) <<< 40) ||| ((((u8 (((v7 >>> 32) &&& 0xff))))) <<< 32) ||| ((((u8 (((v7 >>> 24) &&& 0xff))))) <<< 24) ||| ((((u8 (((v7 >>> 16) &&& 0xff))))) <<< 16) ||| ((((u8 (((v7 >>> 8) &&& 0xff))))) <<< 8) ||| (((u8 (((v7) &&& 0xff))))) ] := rfl
  rw [key]
  rw [upb53_c0 v0 v1 h0,
    upb53_c1 v0 v1 v2 h1,
    upb53_c2 v1 v2 v3 h2,
    upb53_c3 v2 v3 v4 h3,
    upb53_c4 v3 v4 v5 h4,
    upb53_c5 v4 v5 v6 h5,
    upb53_c6 v5 v6 v7 h6,
    upb53_c7 v6 v7 h7]

theorem upb54_c0 (v0 v1 : Nat) (hv : v0 < 2 ^ 54) :
    ((((u8 (((v0 >>> 46) &&& 0xff))))) <<< 46) ||| ((((u8 (((v0 >>> 38) &&& 0xff))))) <<< 38) ||| ((((u8 (((v0 >>> 30) &&& 0xff))))) <<< 30) ||| ((((u8 (((v0 >>> 22) &&& 0xff))))) <<< 22) ||| ((((u8 (((v0 >>> 14) &&& 0xff))))) <<< 14) ||| ((((u8 (((v0 >>> 6) &&& 0xff))))) <<< 6) ||| ((((u8 (((((v0) &&& 0x3f) <<< 2) ||| ((v1 >>> 52) &&& 0x3)))) >>> 2) &&& 0x3f)) = v0 := by
  rw [step_top v0 54 46 rfl hv]
  rw [step_mid v0 46 38 rfl]
  rw [step_mid v0 38 30 rfl]
  rw [step_mid v0 30 22 rfl]
  rw [step_mid v0 22 14 rfl]
  rw [step_mid v0 14 6 rfl]
  rw [step_last v0 (((v1 >>> 52) &&& 0x3)) 2 6 63 rfl rfl
    (Nat.and_lt_two_pow _ (by norm_num))]

theorem upb54_c1 (v0 v1 v2 : Nat) (hv : v1 < 2 ^ 54) :
    (((((u8 (((((v0) &&& 0x3f) <<< 2) ||| ((v1 >>> 52) &&& 0x3))))) &&& 0x3)) <<< 52) ||| ((((u8 (((v1 >>> 44) &&& 0xff))))) <<< 44) ||| ((((u8 (((v1 >>> 36) &&& 0xff))))) <<< 36) ||| ((((u8 (((v1 >>> 28) &&& 0xff))))) <<< 28) ||| ((((u8 (((v1 >>> 20) &&& 0xff))))) <<< 20) ||| ((((u8 (((v1 >>> 12) &&& 0xff))))) <<< 12) ||| ((((u8 (((v1 >>> 4) &&& 0xff))))) <<< 4) ||| ((((u8 (((((v1) &&& 0xf) <<< 4) ||| ((v2 >>> 50) &&& 0xf)))) >>> 4) &&& 0xf)) = v1 := by
  rw [step_first (((v0) &&& 0x3f)) v1 54 52 2 3 rfl rfl (by norm_num) hv]
  rw [step_mid v1 52 44 rfl]
  rw [step_mid v1 44 36 rfl]
  rw [step_mid v1 36 28 rfl]
  rw [step_mid v1 28 20 rfl]
  rw [step_mid v1 20 12 rfl]
  rw [step_mid v1 12 4 rfl]
  rw [step_last v1 (((v2 >>> 50) &&& 0xf)) 4 4 15 rfl rfl
    (Nat.and_lt_two_pow _ (by norm_num))]

theorem upb54_c2 (v1 v2 v3 : Nat) (hv : v2 < 2 ^ 54) :
    (((((u8 (((((v1) &&& 0xf) <<< 4) ||| ((v2 >>> 50) &&& 0xf))))) &&& 0xf)) <<< 50) ||| ((((u8 (((v2 >>> 42) &&& 0xff))))) <<< 42) ||| ((((u8 (((v2 >>> 34) &&& 0xff))))) <<< 34) ||| ((((u8 (((v2 >>> 26) &&& 0xff))))) <<< 26) ||| ((((u8 (((v2 >>> 18) &&& 0xff))))) <<< 18) ||| ((((u8 (((v2 >>> 10) &&& 0xff))))) <<< 10) ||| ((((u8 (((v2 >>> 2) &&& 0xff))))) <<< 2) ||| ((((u8 (((((v2) &&& 0x3) <<< 6) ||| ((v3 >>> 48) &&& 0x3f)))) >>> 6) &&& 0x3)) = v2 := by
  rw [step_first (((v1) &&& 0xf)) v2 54 50 4 15 rfl rfl (by norm_num) hv]
  rw [step_mid v2 50 42 rfl]
  rw [step_mid v2 42 34 rfl]
  rw [step_mid v2 34 26 rfl]
  rw [step_mid v2 26 18 rfl]
  rw [step_mid v2 18 10 rfl]
  rw [step_mid v2 10 2 rfl]
  rw [step_last v2 (((v3 >>> 48) &&& 0x3f)) 6 2 3 rfl rfl
    (Nat.and_lt_two_pow _ (by norm_num))]

theorem upb54_c3 (v2 v3 : Nat) (hv : v3 < 2 ^ 54) :
    (((((u8 (((((v2) &&& 0x3) <<< 6) ||| ((v3 >>> 48) &&& 0x3f))))) &&& 0x3f)) <<< 48) ||| ((((u8 (((v3 >>> 40) &&& 0xff))))) <<< 40) ||| ((((u8 (((v3 >>> 32) &&& 0xff))))) <<< 32) ||| ((((u8 (((v3 >>> 24) &&& 0xff))))) <<< 24) ||| ((((u8 (((v3 >>> 16) &&& 0xff))))) <<< 16) ||| ((((u8 (((v3 >>> 8) &&& 0xff))))) <<< 8) ||| (((u8 (((v3) &&& 0xff))))) = v3 := by
  rw [step_first (((v2) &&& 0x3)) v3 54 48 6 63 rfl rfl (by norm_num) hv]
  rw [step_mid v3 48 40 rfl]
  rw [step_mid v3 40 32 rfl]
  rw [step_mid v3 32 24 rfl]
  rw [step_mid v3 24 16 rfl]
  rw [step_mid v3 16 8 rfl]
  rw [step_low v3]

theorem upb54_c4 (v4 v5 : Nat) (hv : v4 < 2 ^ 54) :
    ((((u8 (((v4 >>> 46) &&& 0xff))))) <<< 46) ||| ((((u8 (((v4 >>> 38) &&& 0xff))))) <<< 38) ||| ((((u8 (((v4 >>> 30) &&& 0xff))))) <<< 30) ||| ((((u8 (((v4 >>> 22) &&& 0xff))))) <<< 22) ||| ((((u8 (((v4 >>> 14) &&& 0xff))))) <<< 14) ||| ((((u8 (((v4 >>> 6) &&& 0xff))))) <<< 6) ||| ((((u8 (((((v4) &&& 0x3f) <<< 2) ||| ((v5 >>> 52) &&& 0x3)))) >>> 2) &&& 0x3f)) = v4 := by
  rw [step_top v4 54 46 rfl hv]
  rw [step_mid v4 46 38 rfl]
  rw [step_mid v4 38 30 rfl]
  rw [step_mid v4 30 22 rfl]
  rw [step_mid v4 22 14 rfl]
  rw [step_mid v4 14 6 rfl]
  rw [step_last v4 (((v5 >>> 52) &&& 0x3)) 2 6 63 rfl rfl
    (Nat.and_lt_two_pow _ (by norm_num))]

theorem upb54_c5 (v4 v5 v6 : Nat) (hv : v5 < 2 ^ 54) :
    (((((u8 (((((v4) &&& 0x3f) <<< 2) ||| ((v5 >>> 52) &&& 0x3))))) &&& 0x3)) <<< 52) ||| ((((u8 (((v5 >>> 44) &&& 0xff))))) <<< 44) ||| ((((u8 (((v5 >>> 36) &&& 0xff))))) <<< 36) ||| ((((u8 (((v5 >>> 28) &&& 0xff))))) <<< 28) ||| ((((u8 (((v5 >>> 20) &&& 0xff))))) <<< 20) ||| ((((u8 (((v5 >>> 12) &&& 0xff))))) <<< 12) ||| ((((u8 (((v5 >>> 4) &&& 0xff))))) <<< 4) ||| ((((u8 (((((v5) &&& 0xf) <<< 4) ||| ((v6 >>> 50) &&& 0xf)))) >>> 4) &&& 0xf)) = v5 := by
  rw [step_first (((v4) &&& 0x3f)) v5 54 52 2 3 rfl rfl (by norm_num) hv]
  rw [step_mid v5 52 44 rfl]
  rw [step_mid v5 44 36 rfl]
  rw [step_mid v5 36 28 rfl]
  rw [step_mid v5 28 20 rfl]
  rw [step_mid v5 20 12 rfl]
  rw [step_mid v5 12 4 rfl]
  rw [step_last v5 (((v6 >>> 50) &&& 0xf)) 4 4 15 rfl rfl
    (Nat.and_lt_two_pow _ (by norm_num))]

theorem upb54_c6 (v5 v6 v7 : Nat) (hv : v6 < 2 ^ 54) :
    (((((u8 (((((v5) &&& 0xf) <<< 4) ||| ((v6 >>> 50) &&& 0xf))))) &&& 0xf)) <<< 50) ||| ((((u8 (((v6 >>> 42) &&& 0xff))))) <<< 42) ||| ((((u8 (((v6 >>> 34) &&& 0xff))))) <<< 34) ||| ((((u8 (((v6 >>> 26) &&& 0xff))))) <<< 26) ||| ((((u8 (((v6 >>> 18) &&& 0xff))))) <<< 18) ||| ((((u8 (((v6 >>> 10) &&& 0xff))))) <<< 10) ||| ((((u8 (((v6 >>> 2) &&& 0xff))))) <<< 2) ||| ((((u8 (((((v6) &&& 0x3) <<< 6) ||| ((v7 >>> 48) &&& 0x3f)))) >>> 6) &&& 0x3)) = v6 := by
  rw [step_first (((v5) &&& 0xf)) v6 54 50 4 15 rfl rfl (by norm_num) hv]
  rw [step_mid v6 50 42 rfl]
  rw [step_mid v6 42 34 rfl]
  rw [step_mid v6 34 26 rfl]
  rw [step_mid v6 26 18 rfl]
  rw [step_mid v6 18 10 rfl]
  rw [step_mid v6 10 2 rfl]
  rw [step_last v6 (((v7 >>> 48) &&& 0x3f)) 6 2 3 rfl rfl
    (Nat.and_lt_two_pow _ (by norm_num))]

theorem upb54_c7 (v6 v7 : Nat) (hv : v7 < 2 ^ 54) :
    (((((u8 (((((v6) &&& 0x3) <<< 6) ||| ((v7 >>> 48) &&& 0x3f))))) &&& 0x3f)) <<< 48) ||| ((((u8 (((v7 >>> 40) &&& 0xff))))) <<< 40) ||| ((((u8 (((v7 >>> 32) &&& 0xff))))) <<< 32) ||| ((((u8 (((v7 >>> 24) &&& 0xff))))) <<< 24) ||| ((((u8 (((v7 >>> 16) &&& 0xff))))) <<< 16) ||| ((((u8 (((v7 >>> 8) &&& 0xff))))) <<< 8) ||| (((u8 (((v7) &&& 0xff))))) = v7 := by
  rw [step_first (((v6) &&& 0x3)) v7 54 48 6 63 rfl rfl (by norm_num) hv]
  rw [step_mid v7 48 40 rfl]
  rw [step_mid v7 40 32 rfl]
  rw [step_mid v7 32 24 rfl]
  rw [step_mid v7 24 16 rfl]
  rw [step_mid v7 16 8 rfl]
  rw [step_low v7]

theorem unpack_pack_bits_54 (v0 v1 v2 v3 v4 v5 v6 v7 : Nat)
    (h0 : v0 < 2 ^ 54) (h1 : v1 < 2 ^ 54) (h2 : v2 < 2 ^ 54) (h3 : v3 < 2 ^ 54) (h4 : v4 < 2 ^ 54) (h5 : v5 < 2 ^ 54) (h6 : v6 < 2 ^ 54) (h7 : v7 < 2 ^ 54) :
    unpack_bits_54 (pack_bits_54 v0 v1 v2 v3 v4 v5 v6 v7) =
      [v0, v1, v2, v3, v4, v5, v6, v7] := by
  have key : unpack_bits_54 (pack_bits_54 v0 v1 v2 v3 v4 v5 v6 v7) =
      [ ((((u8 (((v0 >>> 46) &&& 0xff))))) <<< 46) ||| ((((u8 (((v0 >>> 38) &&& 0xff))))) <<< 38) ||| ((((u8 (((v0 >>> 30) &&& 0xff))))) <<< 30) ||| ((((u8 (((v0 >>> 22) &&& 0xff))))) <<< 22) ||| ((((u8 (((v0 >>> 14) &&& 0xff))))) <<< 14) ||| ((((u8 (((v0 >>> 6) &&& 0xff))))) <<< 6) ||| ((((u8 (((((v0) &&& 0x3f) <<< 2) ||| ((v1 >>> 52) &&& 0x3)))) >>> 2) &&& 0x3f)),
        (((((u8 (((((v0) &&& 0x3f) <<< 2) ||| ((v1 >>> 52) &&& 0x3))))) &&& 0x3)) <<< 52) ||| ((((u8 (((v1 >>> 44) &&& 0xff))))) <<< 44) ||| ((((u8 (((v1 >>> 36) &&& 0xff))))) <<< 36) ||| ((((u8 (((v1 >>> 28) &&& 0xff))))) <<< 28) ||| ((((u8 (((v1 >>> 20) &&& 0xff))))) <<< 20) ||| ((((u8 (((v1 >>> 12) &&& 0xff))))) <<< 12) ||| ((((u8 (((v1 >>> 4) &&& 0xff))))) <<< 4) ||| ((((u8 (((((v1) &&& 0xf) <<< 4) ||| ((v2 >>> 50) &&& 0xf)))) >>> 4) &&& 0xf)),
        (((((u8 (((((v1) &&& 0xf) <<< 4) ||| ((v2 >>> 50) &&& 0xf))))) &&& 0xf)) <<< 50) ||| ((((u8 (((v2 >>> 42) &&& 0xff))))) <<< 42) ||| ((((u8 (((v2 >>> 34) &&& 0xff))))) <<< 34) ||| ((((u8 (((v2 >>> 26) &&& 0xff))))) <<< 26) ||| ((((u8 (((v2 >>> 18) &&& 0xff))))) <<< 18) ||| ((((u8 (((v2 >>> 10) &&& 0xff))))) <<< 10) ||| ((((u8 (((v2 >>> 2) &&& 0xff))))) <<< 2) ||| ((((u8 (((((v2) &&& 0x3) <<< 6) ||| ((v3 >>> 48) &&& 0x3f)))) >>> 6) &&& 0x3)),
        (((((u8 (((((v2) &&& 0x3) <<< 6) ||| ((v3 >>> 48) &&& 0x3f))))) &&& 0x3f)) <<< 48) ||| ((((u8 (((v3 >>> 40) &&& 0xff))))) <<< 40) ||| ((((u8 (((v3 >>> 32) &&& 0xff))))) <<< 32) ||| ((((u8 (((v3 >>> 24) &&& 0xff))))) <<< 24) ||| ((((u8 (((v3 >>> 16) &&& 0xff))))) <<< 16) ||| ((((u8 (((v3 >>> 8) &&& 0xff))))) <<< 8) ||| (((u8 (((v3) &&& 0xff))))),
        ((((u8 (((v4 >>> 46) &&& 0xff))))) <<< 46) ||| ((((u8 (((v4 >>> 38) &&& 0xff))))) <<< 38) ||| ((((u8 (((v4 >>> 30) &&& 0xff))))) <<< 30) ||| ((((u8 (((v4 >>> 22) &&& 0xff))))) <<< 22) ||| ((((u8 (((v4 >>> 14) &&& 0xff))))) <<< 14) ||| ((((u8 (((v4 >>> 6) &&& 0xff))))) <<< 6) ||| ((((u8 (((((v4) &&& 0x3f) <<< 2) ||| ((v5 >>> 52) &&& 0x3)))) >>> 2) &&& 0x3f)),
        (((((u8 (((((v4) &&& 0x3f) <<< 2) ||| ((v5 >>> 52) &&& 0x3))))) &&& 0x3)) <<< 52) ||| ((((u8 (((v5 >>> 44) &&& 0xff))))) <<< 44) ||| ((((u8 (((v5 >>> 36) &&& 0xff))))) <<< 36) ||| ((((u8 (((v5 >>> 28) &&& 0xff))))) <<< 28) ||| ((((u8 (((v5 >>> 20) &&& 0xff))))) <<< 20) ||| ((((u8 (((v5 >>> 12) &&& 0xff))))) <<< 12) ||| ((((u8 (((v5 >>> 4) &&& 0xff))))) <<< 4) ||| ((((u8 (((((v5) &&& 0xf) <<< 4) ||| ((v6 >>> 50) &&& 0xf)))) >>> 4) &&& 0xf)),
        (((((u8 (((((v5) &&& 0xf) <<< 4) ||| ((v6 >>> 50) &&& 0xf))))) &&& 0xf)) <<< 50) ||| ((((u8 (((v6 >>> 42) &&& 0xff))))) <<< 42) ||| ((((u8 (((v6 >>> 34) &&& 0xff))))) <<< 34) ||| ((((u8 (((v6 >>> 26) &&& 0xff))))) <<< 26) ||| ((((u8 (((v6 >>> 18) &&& 0xff))))) <<< 18) ||| ((((u8 (((v6 >>> 10) &&& 0xff))))) <<< 10) ||| ((((u8 (((v6 >>> 2) &&& 0xff))))) <<< 2) ||| ((((u8 (((((v6) &&& 0x3) <<< 6) ||| ((v7 >>> 48) &&& 0x3f)))) >>> 6) &&& 0x3)),
        (((((u8 (((((v6) &&& 0x3) <<< 6) ||| ((v7 >>> 48) &&& 0x3f))))) &&& 0x3f)) <<< 48) ||| ((((u8 (((v7 >>> 40) &&& 0xff))))) <<< 40) ||| ((((u8 (((v7 >>> 32) &&& 0xff))))) <<< 32) ||| ((((u8 (((v7 >>> 24) &&& 0xff))))) <<< 24) ||| ((((u8 (((v7 >>> 16) &&& 0xff))))) <<< 16) ||| ((((u8 (((v7 >>> 8) &&& 0xff))))) <<< 8) ||| (((u8 (((v7) &&& 0xff))))) ] := rfl
  rw [key]
  rw [upb54_c0 v0 v1 h0,
    upb54_c1 v0 v1 v2 h1,
    upb54_c2 v1 v2 v3 h2,
    upb54_c3 v2 v3 h3,
    upb54_c4 v4 v5 h4,
    upb54_c5 v4 v5 v6 h5,
    upb54_c6 v5 v6 v7 h6,
    upb54_c7 v6 v7 h7]

theorem upb55_c0 (v0 v1 : Nat) (hv : v0 < 2 ^ 55) :
    ((((u8 (((v0 >>> 47) &&& 0xff))))) <<< 47) ||| ((((u8 (((v0 >>> 39) &&& 0xff))))) <<< 39) ||| ((((u8 (((v0 >>> 31) &&& 0xff))))) <<< 31) ||| ((((u8 (((v0 >>> 23) &&& 0xff))))) <<< 23) ||| ((((u8 (((v0 >>> 15) &&& 0xff))))) <<< 15) ||| ((((u8 (((v0 >>> 7) &&& 0xff))))) <<< 7) ||| ((((u8 (((((v0) &&& 0x7f) <<< 1) ||| ((v1 >>> 54) &&& 0x1)))) >>> 1) &&& 0x7f)) = v0 := by
  rw [step_top v0 55 47 rfl hv]
  rw [step_mid v0 47 39 rfl]
  rw [step_mid v0 39 31 rfl]
  rw [step_mid v0 31 23 rfl]
  rw [step_mid v0 23 15 rfl]
  rw [step_mid v0 15 7 rfl]
  rw [step_last v0 (((v1 >>> 54) &&& 0x1)) 1 7 127 rfl rfl
    (Nat.and_lt_two_pow _ (by norm_num))]

theorem upb55_c1 (v0 v1 v2 : Nat) (hv : v1 < 2 ^ 55) :
    (((((u8 (((((v0) &&& 0x7f) <<< 1) ||| ((v1 >>> 54) &&& 0x1))))) &&& 0x1)) <<< 54) ||| ((((u8 (((v1 >>> 46) &&& 0xff))))) <<< 46) ||| ((((u8 (((v1 >>> 38) &&& 0xff))))) <<< 38) ||| ((((u8 (((v1 >>> 30) &&& 0xff))))) <<< 30) ||| ((((u8 (((v1 >>> 22) &&& 0xff))))) <<< 22) ||| ((((u8 (((v1 >>> 14) &&& 0xff))))) <<< 14) ||| ((((u8 (((v1 >>> 6) &&& 0xff))))) <<< 6) ||| ((((u8 (((((v1) &&& 0x3f) <<< 2) ||| ((v2 >>> 53) &&& 0x3)))) >>> 2) &&& 0x3f)) = v1 := by
  rw [step_first (((v0) &&& 0x7f)) v1 55 54 1 1 rfl rfl (by norm_num) hv]
  rw [step_mid v1 54 46 rfl]
  rw [step_mid v1 46 38 rfl]
  rw [step_mid v1 38 30 rfl]
  rw [step_mid v1 30 22 rfl]
  rw [step_mid v1 22 14 rfl]
  rw [step_mid v1 14 6 rfl]
  rw [step_last v1 (((v2 >>> 53) &&& 0x3)) 2 6 63 rfl rfl
    (Nat.and_lt_two_pow _ (by norm_num))]

theorem upb55_c2 (v1 v2 v3 : Nat) (hv : v2 < 2 ^ 55) :
    (((((u8 (((((v1) &&& 0x3f) <<< 2) ||| ((v2 >>> 53) &&& 0x3))))) &&& 0x3)) <<< 53) ||| ((((u8 (((v2 >>> 45) &&& 0xff))))) <<< 45) ||| ((((u8 (((v2 >>> 37) &&& 0xff))))) <<< 37) ||| ((((u8 (((v2 >>> 29) &&& 0xff))))) <<< 29) ||| ((((u8 (((v2 >>> 21) &&& 0xff))))) <<< 21) ||| ((((u8 (((v2 >>> 13) &&& 0xff))))) <<< 13) ||| ((((u8 (((v2 >>> 5) &&& 0xff))))) <<< 5) ||| ((((u8 (((((v2) &&& 0x1f) <<< 3) ||| ((v3 >>> 52) &&& 0x7)))) >>> 3) &&& 0x1f)) = v2 := by
  rw [step_first (((v1) &&& 0x3f)) v2 55 53 2 3 rfl rfl (by norm_num) hv]
  rw [step_mid v2 53 45 rfl]
  rw [step_mid v2 45 37 rfl]
  rw [step_mid v2 37 29 rfl]
  rw [step_mid v2 29 21 rfl]
  rw [step_mid v2 21 13 rfl]
  rw [step_mid v2 13 5 rfl]
  rw [step_last v2 (((v3 >>> 52) &&& 0x7)) 3 5 31 rfl rfl
    (Nat.and_lt_two_pow _ (by norm_num))]

theorem upb55_c3 (v2 v3 v4 : Nat) (hv : v3 < 2 ^ 55) :
    (((((u8 (((((v2) &&& 0x1f) <<< 3) ||| ((v3 >>> 52) &&& 0x7))))) &&& 0x7)) <<< 52) ||| ((((u8 (((v3 >>> 44) &&& 0xff))))) <<< 44) ||| ((((u8 (((v3 >>> 36) &&& 0xff))))) <<< 36) ||| ((((u8 (((v3 >>> 28) &&& 0xff))))) <<< 28) ||| ((((u8 (((v3 >>> 20) &&& 0xff))))) <<< 20) ||| ((((u8 (((v3 >>> 12) &&& 0xff))))) <<< 12) ||| ((((u8 (((v3 >>> 4) &&& 0xff))))) <<< 4) ||| ((((u8 (((((v3) &&& 0xf) <<< 4) ||| ((v4 >>> 51) &&& 0xf)))) >>> 4) &&& 0xf)) = v3 := by
  rw [step_first (((v2) &&& 0x1f)) v3 55 52 3 7 rfl rfl (by norm_num) hv]
  rw [step_mid v3 52 44 rfl]
  rw [step_mid v3 44 36 rfl]
  rw [step_mid v3 36 28 rfl]
  rw [step_mid v3 28 20 rfl]
  rw [step_mid v3 20 12 rfl]
  rw [step_mid v3 12 4 rfl]
  rw [step_last v3 (((v4 >>> 51) &&& 0xf)) 4 4 15 rfl rfl
    (Nat.and_lt_two_pow _ (by norm_num))]

theorem upb55_c4 (v3 v4 v5 : Nat) (hv : v4 < 2 ^ 55) :
    (((((u8 (((((v3) &&& 0xf) <<< 4) ||| ((v4 >>> 51) &&& 0xf))))) &&& 0xf)) <<< 51) ||| ((((u8 (((v4 >>> 43) &&& 0xff))))) <<< 43) ||| ((((u8 (((v4 >>> 35) &&& 0xff))))) <<< 35) ||| ((((u8 (((v4 >>> 27) &&& 0xff))))) <<< 27) ||| ((((u8 (((v4 >>> 19) &&& 0xff))))) <<< 19) ||| ((((u8 (((v4 >>> 11) &&& 0xff))))) <<< 11) ||| ((((u8 (((v4 >>> 3) &&& 0xff))))) <<< 3) ||| ((((u8 (((((v4) &&& 0x7) <<< 5) ||| ((v5 >>> 50) &&& 0x1f)))) >>> 5) &&& 0x7)) = v4 := by
  rw [step_first (((v3) &&& 0xf)) v4 55 51 4 15 rfl rfl (by norm_num) hv]
  rw [step_mid v4 51 43 rfl]
  rw [step_mid v4 43 35 rfl]
  rw [step_mid v4 35 27 rfl]
  rw [step_mid v4 27 19 rfl]
  rw [step_mid v4 19 11 rfl]
  rw [step_mid v4 11 3 rfl]
  rw [step_last v4 (((v5 >>> 50) &&& 0x1f)) 5 3 7 rfl rfl
    (Nat.and_lt_two_pow _ (by norm_num))]

theorem upb55_c5 (v4 v5 v6 : Nat) (hv : v5 < 2 ^ 55) :
    (((((u8 (((((v4) &&& 0x7) <<< 5) ||| ((v5 >>> 50) &&& 0x1f))))) &&& 0x1f)) <<< 50) ||| ((((u8 (((v5 >>> 42) &&& 0xff))))) <<< 42) ||| ((((u8 (((v5 >>> 34) &&& 0xff))))) <<< 34) ||| ((((u8 (((v5 >>> 26) &&& 0xff))))) <<< 26) ||| ((((u8 (((v5 >>> 18) &&& 0xff))))) <<< 18) ||| ((((u8 (((v5 >>> 10) &&& 0xff))))) <<< 10) ||| ((((u8 (((v5 >>> 2) &&& 0xff))))) <<< 2) ||| ((((u8 (((((v5) &&& 0x3) <<< 6) ||| ((v6 >>> 49) &&& 0x3f)))) >>> 6) &&& 0x3)) = v5 := by
  rw [step_first (((v4) &&& 0x7)) v5 55 50 5 31 rfl rfl (by norm_num) hv]
  rw [step_mid v5 50 42 rfl]
  rw [step_mid v5 42 34 rfl]
  rw [step_mid v5 34 26 rfl]
  rw [step_mid v5 26 18 rfl]
  rw [step_mid v5 18 10 rfl]
  rw [step_mid v5 10 2 rfl]
  rw [step_last v5 (((v6 >>> 49) &&& 0x3f)) 6 2 3 rfl rfl
    (Nat.and_lt_two_pow _ (by norm_num))]

theorem upb55_c6 (v5 v6 v7 : Nat) (hv : v6 < 2 ^ 55) :
    (((((u8 (((((v5) &&& 0x3) <<< 6) ||| ((v6 >>> 49) &&& 0x3f))))) &&& 0x3f)) <<< 49) ||| ((((u8 (((v6 >>> 41) &&& 0xff))))) <<< 41) ||| ((((u8 (((v6 >>> 33) &&& 0xff))))) <<< 33) ||| ((((u8 (((v6 >>> 25) &&& 0xff))))) <<< 25) ||| ((((u8 (((v6 >>> 17) &&& 0xff))))) <<< 17) ||| ((((u8 (((v6 >>> 9) &&& 0xff))))) <<< 9) ||| ((((u8 (((v6 >>> 1) &&& 0xff))))) <<< 1) ||| ((((u8 (((((v6) &&& 0x1) <<< 7) ||| ((v7 >>> 48) &&& 0x7f)))) >>> 7) &&& 0x1)) = v6 := by
  rw [step_first (((v5) &&& 0x3)) v6 55 49 6 63 rfl rfl (by norm_num) hv]
  rw [step_mid v6 49 41 rfl]
  rw [step_mid v6 41 33 rfl]
  rw [step_mid v6 33 25 rfl]
  rw [step_mid v6 25 17 rfl]
  rw [step_mid v6 17 9 rfl]
  rw [step_mid v6 9 1 rfl]
  rw [step_last v6 (((v7 >>> 48) &&& 0x7f)) 7 1 1 rfl rfl
    (Nat.and_lt_two_pow _ (by norm_num))]

theorem upb55_c7 (v6 v7 : Nat) (hv : v7 < 2 ^ 55) :
    (((((u8 (((((v6) &&& 0x1) <<< 7) ||| ((v7 >>> 48) &&& 0x7f))))) &&& 0x7f)) <<< 48) ||| ((((u8 (((v7 >>> 40) &&& 0xff))))) <<< 40) ||| ((((u8 (((v7 >>> 32) &&& 0xff))))) <<< 32) ||| ((((u8 (((v7 >>> 24) &&& 0xff))))) <<< 24) ||| ((((u8 (((v7 >>> 16) &&& 0xff))))) <<< 16) ||| ((((u8 (((v7 >>> 8) &&& 0xff))))) <<< 8) ||| (((u8 (((v7) &&& 0xff))))) = v7 := by
  rw [step_first (((v6) &&& 0x1)) v7 55 48 7 127 rfl rfl (by norm_num) hv]
  rw [step_mid v7 48 40 rfl]
  rw [step_mid v7 40 32 rfl]
  rw [step_mid v7 32 24 rfl]
  rw [step_mid v7 24 16 rfl]
  rw [step_mid v7 16 8 rfl]
  rw [step_low v7]

theorem unpack_pack_bits_55 (v0 v1 v2 v3 v4 v5 v6 v7 : Nat)
    (h0 : v0 < 2 ^ 55) (h1 : v1 < 2 ^ 55) (h2 : v2 < 2 ^ 55) (h3 : v3 < 2 ^ 55) (h4 : v4 < 2 ^ 55) (h5 : v5 < 2 ^ 55) (h6 : v6 < 2 ^ 55) (h7 : v7 < 2 ^ 55) :
    unpack_bits_55 (pack_bits_55 v0 v1 v2 v3 v4 v5 v6 v7) =
      [v0, v1, v2, v3, v4, v5, v6, v7] := by
  have key : unpack_bits_55 (pack_bits_55 v0 v1 v2 v3 v4 v5 v6 v7) =
      [ ((((u8 (((v0 >>> 47) &&& 0xff))))) <<< 47) ||| ((((u8 (((v0 >>> 39) &&& 0xff))))) <<< 39) ||| ((((u8 (((v0 >>> 31) &&& 0xff))))) <<< 31) ||| ((((u8 (((v0 >>> 23) &&& 0xff))))) <<< 23) ||| ((((u8 (((v0 >>> 15) &&& 0xff))))) <<< 15) ||| ((((u8 (((v0 >>> 7) &&& 0xff))))) <<< 7) ||| ((((u8 (((((v0) &&& 0x7f) <<< 1) ||| ((v1 >>> 54) &&& 0x1)))) >>> 1) &&& 0x7f)),
        (((((u8 (((((v0) &&& 0x7f) <<< 1) ||| ((v1 >>> 54) &&& 0x1))))) &&& 0x1)) <<< 54) ||| ((((u8 (((v1 >>> 46) &&& 0xff))))) <<< 46) ||| ((((u8 (((v1 >>> 38) &&& 0xff))))) <<< 38) ||| ((((u8 (((v1 >>> 30) &&& 0xff))))) <<< 30) ||| ((((u8 (((v1 >>> 22) &&& 0xff))))) <<< 22) ||| ((((u8 (((v1 >>> 14) &&& 0xff))))) <<< 14) ||| ((((u8 (((v1 >>> 6) &&& 0xff))))) <<< 6) ||| ((((u8 (((((v1) &&& 0x3f) <<< 2) ||| ((v2 >>> 53) &&& 0x3)))) >>> 2) &&& 0x3f)),
        (((((u8 (((((v1) &&& 0x3f) <<< 2) ||| ((v2 >>> 53) &&& 0x3))))) &&& 0x3)) <<< 53) ||| ((((u8 (((v2 >>> 45) &&& 0xff))))) <<< 45) ||| ((((u8 (((v2 >>> 37) &&& 0xff))))) <<< 37) ||| ((((u8 (((v2 >>> 29) &&& 0xff))))) <<< 29) ||| ((((u8 (((v2 >>> 21) &&& 0xff))))) <<< 21) ||| ((((u8 (((v2 >>> 13) &&& 0xff))))) <<< 13) ||| ((((u8 (((v2 >>> 5) &&& 0xff))))) <<< 5) ||| ((((u8 (((((v2) &&& 0x1f) <<< 3) ||| ((v3 >>> 52) &&& 0x7)))) >>> 3) &&& 0x1f)),
        (((((u8 (((((v2) &&& 0x1f) <<< 3) ||| ((v3 >>> 52) &&& 0x7))))) &&& 0x7)) <<< 52) ||| ((((u8 (((v3 >>> 44) &&& 0xff))))) <<< 44) ||| ((((u8 (((v3 >>> 36) &&& 0xff))))) <<< 36) ||| ((((u8 (((v3 >>> 28) &&& 0xff))))) <<< 28) ||| ((((u8 (((v3 >>> 20) &&& 0xff))))) <<< 20) ||| ((((u8 (((v3 >>> 12) &&& 0xff))))) <<< 12) ||| ((((u8 (((v3 >>> 4) &&& 0xff))))) <<< 4) ||| ((((u8 (((((v3) &&& 0xf) <<< 4) ||| ((v4 >>> 51) &&& 0xf)))) >>> 4) &&& 0xf)),
        (((((u8 (((((v3) &&& 0xf) <<< 4) ||| ((v4 >>> 51) &&& 0xf))))) &&& 0xf)) <<< 51) ||| ((((u8 (((v4 >>> 43) &&& 0xff))))) <<< 43) ||| ((((u8 (((v4 >>> 35) &&& 0xff))))) <<< 35) ||| ((((u8 (((v4 >>> 27) &&& 0xff))))) <<< 27) ||| ((((u8 (((v4 >>> 19) &&& 0xff))))) <<< 19) ||| ((((u8 (((v4 >>> 11) &&& 0xff))))) <<< 11) ||| ((((u8 (((v4 >>> 3) &&& 0xff))))) <<< 3) ||| ((((u8 (((((v4) &&& 0x7) <<< 5) ||| ((v5 >>> 50) &&& 0x1f)))) >>> 5) &&& 0x7)),
        (((((u8 (((((v4) &&& 0x7) <<< 5) ||| ((v5 >>> 50) &&& 0x1f))))) &&& 0x1f)) <<< 50) ||| ((((u8 (((v5 >>> 42) &&& 0xff))))) <<< 42) ||| ((((u8 (((v5 >>> 34) &&& 0xff))))) <<< 34) ||| ((((u8 (((v5 >>> 26) &&& 0xff))))) <<< 26) ||| ((((u8 (((v5 >>> 18) &&& 0xff))))) <<< 18) ||| ((((u8 (((v5 >>> 10) &&& 0xff))))) <<< 10) ||| ((((u8 (((v5 >>> 2) &&& 0xff))))) <<< 2) ||| ((((u8 (((((v5) &&& 0x3) <<< 6) ||| ((v6 >>> 49) &&& 0x3f)))) >>> 6) &&& 0x3)),
        (((((u8 (((((v5) &&& 0x3) <<< 6) ||| ((v6 >>> 49) &&& 0x3f))))) &&& 0x3f)) <<< 49) ||| ((((u8 (((v6 >>> 41) &&& 0xff))))) <<< 41) ||| ((((u8 (((v6 >>> 33) &&& 0xff))))) <<< 33) ||| ((((u8 (((v6 >>> 25) &&& 0xff))))) <<< 25) ||| ((((u8 (((v6 >>> 17) &&& 0xff))))) <<< 17) ||| ((((u8 (((v6 >>> 9) &&& 0xff))))) <<< 9) ||| ((((u8 (((v6 >>> 1) &&& 0xff))))) <<< 1) ||| ((((u8 (((((v6) &&& 0x1) <<< 7) ||| ((v7 >>> 48) &&& 0x7f)))) >>> 7) &&& 0x1)),
        (((((u8 (((((v6) &&& 0x1) <<< 7) ||| ((v7 >>> 48) &&& 0x7f))))) &&& 0x7f)) <<< 48) ||| ((((u8 (((v7 >>> 40) &&& 0xff))))) <<< 40) ||| ((((u8 (((v7 >>> 32) &&& 0xff))))) <<< 32) ||| ((((u8 (((v7 >>> 24) &&& 0xff))))) <<< 24) ||| ((((u8 (((v7 >>> 16) &&& 0xff))))) <<< 16) ||| ((((u8 (((v7 >>> 8) &&& 0xff))))) <<< 8) ||| (((u8 (((v7) &&& 0xff))))) ] := rfl
  rw [key]
  rw [upb55_c0 v0 v1 h0,
    upb55_c1 v0 v1 v2 h1,
    upb55_c2 v1 v2 v3 h2,
    upb55_c3 v2 v3 v4 h3,
    upb55_c4 v3 v4 v5 h4,
    upb55_c5 v4 v5 v6 h5,
    upb55_c6 v5 v6 v7 h6,
    upb55_c7 v6 v7 h7]

theorem upb56_c0 (v0 : Nat) (hv : v0 < 2 ^ 56) :
    ((((u8 (((v0 >>> 48) &&& 0xff))))) <<< 48) ||| ((((u8 (((v0 >>> 40) &&& 0xff))))) <<< 40) ||| ((((u8 (((v0 >>> 32) &&& 0xff))))) <<< 32) ||| ((((u8 (((v0 >>> 24) &&& 0xff))))) <<< 24) ||| ((((u8 (((v0 >>> 16) &&& 0xff))))) <<< 16) ||| ((((u8 (((v0 >>> 8) &&& 0xff))))) <<< 8) ||| (((u8 (((v0) &&& 0xff))))) = v0 := by
  rw [step_top v0 56 48 rfl hv]
  rw [step_mid v0 48 40 rfl]
  rw [step_mid v0 40 32 rfl]
  rw [step_mid v0 32 24 rfl]
  rw [step_mid v0 24 16 rfl]
  rw [step_mid v0 16 8 rfl]
  rw [step_low v0]

theorem upb56_c1 (v1 : Nat) (hv : v1 < 2 ^ 56) :
    ((((u8 (((v1 >>> 48) &&& 0xff))))) <<< 48) ||| ((((u8 (((v1 >>> 40) &&& 0xff))))) <<< 40) ||| ((((u8 (((v1 >>> 32) &&& 0xff))))) <<< 32) ||| ((((u8 (((v1 >>> 24) &&& 0xff))))) <<< 24) ||| ((((u8 (((v1 >>> 16) &&& 0xff))))) <<< 16) ||| ((((u8 (((v1 >>> 8) &&& 0xff))))) <<< 8) ||| (((u8 (((v1) &&& 0xff))))) = v1 := by
  rw [step_top v1 56 48 rfl hv]
  rw [step_mid v1 48 40 rfl]
  rw [step_mid v1 40 32 rfl]
  rw [step_mid v1 32 24 rfl]
  rw [step_mid v1 24 16 rfl]
  rw [step_mid v1 16 8 rfl]
  rw [step_low v1]

theorem upb56_c2 (v2 : Nat) (hv : v2 < 2 ^ 56) :
    ((((u8 (((v2 >>> 48) &&& 0xff))))) <<< 48) ||| ((((u8 (((v2 >>> 40) &&& 0xff))))) <<< 40) ||| ((((u8 (((v2 >>> 32) &&& 0xff))))) <<< 32) ||| ((((u8 (((v2 >>> 24) &&& 0xff))))) <<< 24) ||| ((((u8 (((v2 >>> 16) &&& 0xff))))) <<< 16) ||| ((((u8 (((v2 >>> 8) &&& 0xff))))) <<< 8) ||| (((u8 (((v2) &&& 0xff))))) = v2 := by
  rw [step_top v2 56 48 rfl hv]
  rw [step_mid v2 48 40 rfl]
  rw [step_mid v2 40 32 rfl]
  rw [step_mid v2 32 24 rfl]
  rw [step_mid v2 24 16 rfl]
  rw [step_mid v2 16 8 rfl]
  rw [step_low v2]

theorem upb56_c3 (v3 : Nat) (hv : v3 < 2 ^ 56) :
    ((((u8 (((v3 >>> 48) &&& 0xff))))) <<< 48) ||| ((((u8 (((v3 >>> 40) &&& 0xff))))) <<< 40) ||| ((((u8 (((v3 >>> 32) &&& 0xff))))) <<< 32) ||| ((((u8 (((v3 >>> 24) &&& 0xff))))) <<< 24) ||| ((((u8 (((v3 >>> 16) &&& 0xff))))) <<< 16) ||| ((((u8 (((v3 >>> 8) &&& 0xff))))) <<< 8) ||| (((u8 (((v3) &&& 0xff))))) = v3 := by
  rw [step_top v3 56 48 rfl hv]
  rw [step_mid v3 48 40 rfl]
  rw [step_mid v3 40 32 rfl]
  rw [step_mid v3 32 24 rfl]
  rw [step_mid v3 24 16 rfl]
  rw [step_mid v3 16 8 rfl]
  rw [step_low v3]

theorem upb56_c4 (v4 : Nat) (hv : v4 < 2 ^ 56) :
    ((((u8 (((v4 >>> 48) &&& 0xff))))) <<< 48) ||| ((((u8 (((v4 >>> 40) &&& 0xff))))) <<< 40) ||| ((((u8 (((v4 >>> 32) &&& 0xff))))) <<< 32) ||| ((((u8 (((v4 >>> 24) &&& 0xff))))) <<< 24) ||| ((((u8 (((v4 >>> 16) &&& 0xff))))) <<< 16) ||| ((((u8 (((v4 >>> 8) &&& 0xff))))) <<< 8) ||| (((u8 (((v4) &&& 0xff))))) = v4 := by
  rw [step_top v4 56 48 rfl hv]
  rw [step_mid v4 48 40 rfl]
  rw [step_mid v4 40 32 rfl]
  rw [step_mid v4 32 24 rfl]
  rw [step_mid v4 24 16 rfl]
  rw [step_mid v4 16 8 rfl]
  rw [step_low v4]

theorem upb56_c5 (v5 : Nat) (hv : v5 < 2 ^ 56) :
    ((((u8 (((v5 >>> 48) &&& 0xff))))) <<< 48) ||| ((((u8 (((v5 >>> 40) &&& 0xff))))) <<< 40) ||| ((((u8 (((v5 >>> 32) &&& 0xff))))) <<< 32) ||| ((((u8 (((v5 >>> 24) &&& 0xff))))) <<< 24) ||| ((((u8 (((v5 >>> 16) &&& 0xff))))) <<< 16) ||| ((((u8 (((v5 >>> 8) &&& 0xff))))) <<< 8) ||| (((u8 (((v5) &&& 0xff))))) = v5 := by
  rw [step_top v5 56 48 rfl hv]
  rw [step_mid v5 48 40 rfl]
  rw [step_mid v5 40 32 rfl]
  rw [step_mid v5 32 24 rfl]
  rw [step_mid v5 24 16 rfl]
  rw [step_mid v5 16 8 rfl]
  rw [step_low v5]

theorem upb56_c6 (v6 : Nat) (hv : v6 < 2 ^ 56) :
    ((((u8 (((v6 >>> 48) &&& 0xff))))) <<< 48) ||| ((((u8 (((v6 >>> 40) &&& 0xff))))) <<< 40) ||| ((((u8 (((v6 >>> 32) &&& 0xff))))) <<< 32) ||| ((((u8 (((v6 >>> 24) &&& 0xff))))) <<< 24) ||| ((((u8 (((v6 >>> 16) &&& 0xff))))) <<< 16) ||| ((((u8 (((v6 >>> 8) &&& 0xff))))) <<< 8) ||| (((u8 (((v6) &&& 0xff))))) = v6 := by
  rw [step_top v6 56 48 rfl hv]
  rw [step_mid v6 48 40 rfl]
  rw [step_mid v6 40 32 rfl]
  rw [step_mid v6 32 24 rfl]
  rw [step_mid v6 24 16 rfl]
  rw [step_mid v6 16 8 rfl]
  rw [step_low v6]

theorem upb56_c7 (v7 : Nat) (hv : v7 < 2 ^ 56) :
    ((((u8 (((v7 >>> 48) &&& 0xff))))) <<< 48) ||| ((((u8 (((v7 >>> 40) &&& 0xff))))) <<< 40) ||| ((((u8 (((v7 >>> 32) &&& 0xff))))) <<< 32) ||| ((((u8 (((v7 >>> 24) &&& 0xff))))) <<< 24) ||| ((((u8 (((v7 >>> 16) &&& 0xff))))) <<< 16) ||| ((((u8 (((v7 >>> 8) &&& 0xff))))) <<< 8) ||| (((u8 (((v7) &&& 0xff))))) = v7 := by
  rw [step_top v7 56 48 rfl hv]
  rw [step_mid v7 48 40 rfl]
  rw [step_mid v7 40 32 rfl]
  rw [step_mid v7 32 24 rfl]
  rw [step_mid v7 24 16 rfl]
  rw [step_mid v7 16 8 rfl]
  rw [step_low v7]

theorem unpack_pack_bits_56 (v0 v1 v2 v3 v4 v5 v6 v7 : Nat)
    (h0 : v0 < 2 ^ 56) (h1 : v1 < 2 ^ 56) (h2 : v2 < 2 ^ 56) (h3 : v3 < 2 ^ 56) (h4 : v4 < 2 ^ 56) (h5 : v5 < 2 ^ 56) (h6 : v6 < 2 ^ 56) (h7 : v7 < 2 ^ 56) :
    unpack_bits_56 (pack_bits_56 v0 v1 v2 v3 v4 v5 v6 v7) =
      [v0, v1, v2, v3, v4, v5, v6, v7] := by
  have key : unpack_bits_56 (pack_bits_56 v0 v1 v2 v3 v4 v5 v6 v7) =
      [ ((((u8 (((v0 >>> 48) &&& 0xff))))) <<< 48) ||| ((((u8 (((v0 >>> 40) &&& 0xff))))) <<< 40) ||| ((((u8 (((v0 >>> 32) &&& 0xff))))) <<< 32) ||| ((((u8 (((v0 >>> 24) &&& 0xff))))) <<< 24) ||| ((((u8 (((v0 >>> 16) &&& 0xff))))) <<< 16) ||| ((((u8 (((v0 >>> 8) &&& 0xff))))) <<< 8) ||| (((u8 (((v0) &&& 0xff))))),
        ((((u8 (((v1 >>> 48) &&& 0xff))))) <<< 48) ||| ((((u8 (((v1 >>> 40) &&& 0xff))))) <<< 40) ||| ((((u8 (((v1 >>> 32) &&& 0xff))))) <<< 32) ||| ((((u8 (((v1 >>> 24) &&& 0xff))))) <<< 24) ||| ((((u8 (((v1 >>> 16) &&& 0xff))))) <<< 16) ||| ((((u8 (((v1 >>> 8) &&& 0xff))))) <<< 8) ||| (((u8 (((v1) &&& 0xff))))),
        ((((u8 (((v2 >>> 48) &&& 0xff))))) <<< 48) ||| ((((u8 (((v2 >>> 40) &&& 0xff))))) <<< 40) ||| ((((u8 (((v2 >>> 32) &&& 0xff))))) <<< 32) ||| ((((u8 (((v2 >>> 24) &&& 0xff))))) <<< 24) ||| ((((u8 (((v2 >>> 16) &&& 0xff))))) <<< 16) ||| ((((u8 (((v2 >>> 8) &&& 0xff))))) <<< 8) ||| (((u8 (((v2) &&& 0xff))))),
        ((((u8 (((v3 >>> 48) &&& 0xff))))) <<< 48) ||| ((((u8 (((v3 >>> 40) &&& 0xff))))) <<< 40) ||| ((((u8 (((v3 >>> 32) &&& 0xff))))) <<< 32) ||| ((((u8 (((v3 >>> 24) &&& 0xff))))) <<< 24) ||| ((((u8 (((v3 >>> 16) &&& 0xff))))) <<< 16) ||| ((((u8 (((v3 >>> 8) &&& 0xff))))) <<< 8) ||| (((u8 (((v3) &&& 0xff))))),
        ((((u8 (((v4 >>> 48) &&& 0xff))))) <<< 48) ||| ((((u8 (((v4 >>> 40) &&& 0xff))))) <<< 40) ||| ((((u8 (((v4 >>> 32) &&& 0xff))))) <<< 32) ||| ((((u8 (((v4 >>> 24) &&& 0xff))))) <<< 24) ||| ((((u8 (((v4 >>> 16) &&& 0xff))))) <<< 16) ||| ((((u8 (((v4 >>> 8) &&& 0xff))))) <<< 8) ||| (((u8 (((v4) &&& 0xff))))),
        ((((u8 (((v5 >>> 48) &&& 0xff))))) <<< 48) ||| ((((u8 (((v5 >>> 40) &&& 0xff))))) <<< 40) ||| ((((u8 (((v5 >>> 32) &&& 0xff))))) <<< 32) ||| ((((u8 (((v5 >>> 24) &&& 0xff))))) <<< 24) ||| ((((u8 (((v5 >>> 16) &&& 0xff))))) <<< 16) ||| ((((u8 (((v5 >>> 8) &&& 0xff))))) <<< 8) ||| (((u8 (((v5) &&& 0xff))))),
        ((((u8 (((v6 >>> 48) &&& 0xff))))) <<< 48) ||| ((((u8 (((v6 >>> 40) &&& 0xff))))) <<< 40) ||| ((((u8 (((v6 >>> 32) &&& 0xff))))) <<< 32) ||| ((((u8 (((v6 >>> 24) &&& 0xff))))) <<< 24) ||| ((((u8 (((v6 >>> 16) &&& 0xff))))) <<< 16) ||| ((((u8 (((v6 >>> 8) &&& 0xff))))) <<< 8) ||| (((u8 (((v6) &&& 0xff))))),
        ((((u8 (((v7 >>> 48) &&& 0xff))))) <<< 48) ||| ((((u8 (((v7 >>> 40) &&& 0xff))))) <<< 40) ||| ((((u8 (((v7 >>> 32) &&& 0xff))))) <<< 32) ||| ((((u8 (((v7 >>> 24) &&& 0xff))))) <<< 24) ||| ((((u8 (((v7 >>> 16) &&& 0xff))))) <<< 16) ||| ((((u8 (((v7 >>> 8) &&& 0xff))))) <<< 8) ||| (((u8 (((v7) &&& 0xff))))) ] := rfl
  rw [key]
  rw [upb56_c0 v0 h0,
    upb56_c1 v1 h1,
    upb56_c2 v2 h2,
    upb56_c3 v3 h3,
    upb56_c4 v4 h4,
    upb56_c5 v5 h5,
    upb56_c6 v6 h6,
    upb56_c7 v7 h7]

theorem upb57_c0 (v0 v1 : Nat) (hv : v0 < 2 ^ 57) :
    ((((u8 (((v0 >>> 49) &&& 0xff))))) <<< 49) ||| ((((u8 (((v0 >>> 41) &&& 0xff))))) <<< 41) ||| ((((u8 (((v0 >>> 33) &&& 0xff))))) <<< 33) ||| ((((u8 (((v0 >>> 25) &&& 0xff))))) <<< 25) ||| ((((u8 (((v0 >>> 17) &&& 0xff))))) <<< 17) ||| ((((u8 (((v0 >>> 9) &&& 0xff))))) <<< 9) ||| ((((u8 (((v0 >>> 1) &&& 0xff))))) <<< 1) ||| ((((u8 (((((v0) &&& 0x1) <<< 7) ||| ((v1 >>> 50) &&& 0x7f)))) >>> 7) &&& 0x1)) = v0 := by
  rw [step_top v0 57 49 rfl hv]
  rw [step_mid v0 49 41 rfl]
  rw [step_mid v0 41 33 rfl]
  rw [step_mid v0 33 25 rfl]
  rw [step_mid v0 25 17 rfl]
  rw [step_mid v0 17 9 rfl]
  rw [step_mid v0 9 1 rfl]
  rw [step_last v0 (((v1 >>> 50) &&& 0x7f)) 7 1 1 rfl rfl
    (Nat.and_lt_two_pow _ (by norm_num))]

theorem upb57_c1 (v0 v1 v2 : Nat) (hv : v1 < 2 ^ 57) :
    (((((u8 (((((v0) &&& 0x1) <<< 7) ||| ((v1 >>> 50) &&& 0x7f))))) &&& 0x7f)) <<< 50) ||| ((((u8 (((v1 >>> 42) &&& 0xff))))) <<< 42) ||| ((((u8 (((v1 >>> 34) &&& 0xff))))) <<< 34) ||| ((((u8 (((v1 >>> 26) &&& 0xff))))) <<< 26) ||| ((((u8 (((v1 >>> 18) &&& 0xff))))) <<< 18) ||| ((((u8 (((v1 >>> 10) &&& 0xff))))) <<< 10) ||| ((((u8 (((v1 >>> 2) &&& 0xff))))) <<< 2) ||| ((((u8 (((((v1) &&& 0x3) <<< 6) ||| ((v2 >>> 51) &&& 0x3f)))) >>> 6) &&& 0x3)) = v1 := by
  rw [step_first (((v0) &&& 0x1)) v1 57 50 7 127 rfl rfl (by norm_num) hv]
  rw [step_mid v1 50 42 rfl]
  rw [step_mid v1 42 34 rfl]
  rw [step_mid v1 34 26 rfl]
  rw [step_mid v1 26 18 rfl]
  rw [step_mid v1 18 10 rfl]
  rw [step_mid v1 10 2 rfl]
  rw [step_last v1 (((v2 >>> 51) &&& 0x3f)) 6 2 3 rfl rfl
    (Nat.and_lt_two_pow _ (by norm_num))]

theorem upb57_c2 (v1 v2 v3 : Nat) (hv : v2 < 2 ^ 57) :
    (((((u8 (((((v1) &&& 0x3) <<< 6) ||| ((v2 >>> 51) &&& 0x3f))))) &&& 0x3f)) <<< 51) ||| ((((u8 (((v2 >>> 43) &&& 0xff))))) <<< 43) ||| ((((u8 (((v2 >>> 35) &&& 0xff))))) <<< 35) ||| ((((u8 (((v2 >>> 27) &&& 0xff))))) <<< 27) ||| ((((u8 (((v2 >>> 19) &&& 0xff))))) <<< 19) ||| ((((u8 (((v2 >>> 11) &&& 0xff))))) <<< 11) ||| ((((u8 (((v2 >>> 3) &&& 0xff))))) <<< 3) ||| ((((u8 (((((v2) &&& 0x7) <<< 5) ||| ((v3 >>> 52) &&& 0x1f)))) >>> 5) &&& 0x7)) = v2 := by
  rw [step_first (((v1) &&& 0x3)) v2 57 51 6 63 rfl rfl (by norm_num) hv]
  rw [step_mid v2 51 43 rfl]
  rw [step_mid v2 43 35 rfl]
  rw [step_mid v2 35 27 rfl]
  rw [step_mid v2 27 19 rfl]
  rw [step_mid v2 19 11 rfl]
  rw [step_mid v2 11 3 rfl]
  rw [step_last v2 (((v3 >>> 52) &&& 0x1f)) 5 3 7 rfl rfl
    (Nat.and_lt_two_pow _ (by norm_num))]

theorem upb57_c3 (v2 v3 v4 : Nat) (hv : v3 < 2 ^ 57) :
    (((((u8 (((((v2) &&& 0x7) <<< 5) ||| ((v3 >>> 52) &&& 0x1f))))) &&& 0x1f)) <<< 52) ||| ((((u8 (((v3 >>> 44) &&& 0xff))))) <<< 44) ||| ((((u8 (((v3 >>> 36) &&& 0xff))))) <<< 36) ||| ((((u8 (((v3 >>> 28) &&& 0xff))))) <<< 28) ||| ((((u8 (((v3 >>> 20) &&& 0xff))))) <<< 20) ||| ((((u8 (((v3 >>> 12) &&& 0xff))))) <<< 12) ||| ((((u8 (((v3 >>> 4) &&& 0xff))))) <<< 4) ||| ((((u8 (((((v3) &&& 0xf) <<< 4) ||| ((v4 >>> 53) &&& 0xf)))) >>> 4) &&& 0xf)) = v3 := by
  rw [step_first (((v2) &&& 0x7)) v3 57 52 5 31 rfl rfl (by norm_num) hv]
  rw [step_mid v3 52 44 rfl]
  rw [step_mid v3 44 36 rfl]
  rw [step_mid v3 36 28 rfl]
  rw [step_mid v3 28 20 rfl]
  rw [step_mid v3 20 12 rfl]
  rw [step_mid v3 12 4 rfl]
  rw [step_last v3 (((v4 >>> 53) &&& 0xf)) 4 4 15 rfl rfl
    (Nat.and_lt_two_pow _ (by norm_num))]

theorem upb57_c4 (v3 v4 v5 : Nat) (hv : v4 < 2 ^ 57) :
    (((((u8 (((((v3) &&& 0xf) <<< 4) ||| ((v4 >>> 53) &&& 0xf))))) &&& 0xf)) <<< 53) ||| ((((u8 (((v4 >>> 45) &&& 0xff))))) <<< 45) ||| ((((u8 (((v4 >>> 37) &&& 0xff))))) <<< 37) ||| ((((u8 (((v4 >>> 29) &&& 0xff))))) <<< 29) ||| ((((u8 (((v4 >>> 21) &&& 0xff))))) <<< 21) ||| ((((u8 (((v4 >>> 13) &&& 0xff))))) <<< 13) ||| ((((u8 (((v4 >>> 5) &&& 0xff))))) <<< 5) ||| ((((u8 (((((v4) &&& 0x1f) <<< 3) ||| ((v5 >>> 54) &&& 0x7)))) >>> 3) &&& 0x1f)) = v4 := by
  rw [step_first (((v3) &&& 0xf)) v4 57 53 4 15 rfl rfl (by norm_num) hv]
  rw [step_mid v4 53 45 rfl]
  rw [step_mid v4 45 37 rfl]
  rw [step_mid v4 37 29 rfl]
  rw [step_mid v4 29 21 rfl]
  rw [step_mid v4 21 13 rfl]
  rw [step_mid v4 13 5 rfl]
  rw [step_last v4 (((v5 >>> 54) &&& 0x7)) 3 5 31 rfl rfl
    (Nat.and_lt_two_pow _ (by norm_num))]

theorem upb57_c5 (v4 v5 v6 : Nat) (hv : v5 < 2 ^ 57) :
    (((((u8 (((((v4) &&& 0x1f) <<< 3) ||| ((v5 >>> 54) &&& 0x7))))) &&& 0x7)) <<< 54) ||| ((((u8 (((v5 >>> 46) &&& 0xff))))) <<< 46) ||| ((((u8 (((v5 >>> 38) &&& 0xff))))) <<< 38) ||| ((((u8 (((v5 >>> 30) &&& 0xff))))) <<< 30) ||| ((((u8 (((v5 >>> 22) &&& 0xff))))) <<< 22) ||| ((((u8 (((v5 >>> 14) &&& 0xff))))) <<< 14) ||| ((((u8 (((v5 >>> 6) &&& 0xff))))) <<< 6) ||| ((((u8 (((((v5) &&& 0x3f) <<< 2) ||| ((v6 >>> 55) &&& 0x3)))) >>> 2) &&& 0x3f)) = v5 := by
  rw [step_first (((v4) &&& 0x1f)) v5 57 54 3 7 rfl rfl (by norm_num) hv]
  rw [step_mid v5 54 46 rfl]
  rw [step_mid v5 46 38 rfl]
  rw [step_mid v5 38 30 rfl]
  rw [step_mid v5 30 22 rfl]
  rw [step_mid v5 22 14 rfl]
  rw [step_mid v5 14 6 rfl]
  rw [step_last v5 (((v6 >>> 55) &&& 0x3)) 2 6 63 rfl rfl
    (Nat.and_lt_two_pow _ (by norm_num))]

theorem upb57_c6 (v5 v6 v7 : Nat) (hv : v6 < 2 ^ 57) :
    (((((u8 (((((v5) &&& 0x3f) <<< 2) ||| ((v6 >>> 55) &&& 0x3))))) &&& 0x3)) <<< 55) ||| ((((u8 (((v6 >>> 47) &&& 0xff))))) <<< 47) ||| ((((u8 (((v6 >>> 39) &&& 0xff))))) <<< 39) ||| ((((u8 (((v6 >>> 31) &&& 0xff))))) <<< 31) ||| ((((u8 (((v6 >>> 23) &&& 0xff))))) <<< 23) ||| ((((u8 (((v6 >>> 15) &&& 0xff))))) <<< 15) ||| ((((u8 (((v6 >>> 7) &&& 0xff))))) <<< 7) ||| ((((u8 (((((v6) &&& 0x7f) <<< 1) ||| ((v7 >>> 56) &&& 0x1)))) >>> 1) &&& 0x7f)) = v6 := by
  rw [step_first (((v5) &&& 0x3f)) v6 57 55 2 3 rfl rfl (by norm_num) hv]
  rw [step_mid v6 55 47 rfl]
  rw [step_mid v6 47 39 rfl]
  rw [step_mid v6 39 31 rfl]
  rw [step_mid v6 31 23 rfl]
  rw [step_mid v6 23 15 rfl]
  rw [step_mid v6 15 7 rfl]
  rw [step_last v6 (((v7 >>> 56) &&& 0x1)) 1 7 127 rfl rfl
    (Nat.and_lt_two_pow _ (by norm_num))]

theorem upb57_c7 (v6 v7 : Nat) (hv : v7 < 2 ^ 57) :
    (((((u8 (((((v6) &&& 0x7f) <<< 1) ||| ((v7 >>> 56) &&& 0x1))))) &&& 0x1)) <<< 56) ||| ((((u8 (((v7 >>> 48) &&& 0xff))))) <<< 48) ||| ((((u8 (((v7 >>> 40) &&& 0xff))))) <<< 40) ||| ((((u8 (((v7 >>> 32) &&& 0xff))))) <<< 32) ||| ((((u8 (((v7 >>> 24) &&& 0xff))))) <<< 24) ||| ((((u8 (((v7 >>> 16) &&& 0xff))))) <<< 16) ||| ((((u8 (((v7 >>> 8) &&& 0xff))))) <<< 8) ||| (((u8 (((v7) &&& 0xff))))) = v7 := by
  rw [step_first (((v6) &&& 0x7f)) v7 57 56 1 1 rfl rfl (by norm_num) hv]
  rw [step_mid v7 56 48 rfl]
  rw [step_mid v7 48 40 rfl]
  rw [step_mid v7 40 32 rfl]
  rw [step_mid v7 32 24 rfl]
  rw [step_mid v7 24 16 rfl]
  rw [step_mid v7 16 8 rfl]
  rw [step_low v7]

theorem unpack_pack_bits_57 (v0 v1 v2 v3 v4 v5 v6 v7 : Nat)
    (h0 : v0 < 2 ^ 57) (h1 : v1 < 2 ^ 57) (h2 : v2 < 2 ^ 57) (h3 : v3 < 2 ^ 57) (h4 : v4 < 2 ^ 57) (h5 : v5 < 2 ^ 57) (h6 : v6 < 2 ^ 57) (h7 : v7 < 2 ^ 57) :
    unpack_bits_57 (pack_bits_57 v0 v1 v2 v3 v4 v5 v6 v7) =
      [v0, v1, v2, v3, v4, v5, v6, v7] := by
  have key : unpack_bits_57 (pack_bits_57 v0 v1 v2 v3 v4 v5 v6 v7) =
      [ ((((u8 (((v0 >>> 49) &&& 0xff))))) <<< 49) ||| ((((u8 (((v0 >>> 41) &&& 0xff))))) <<< 41) ||| ((((u8 (((v0 >>> 33) &&& 0xff))))) <<< 33) ||| ((((u8 (((v0 >>> 25) &&& 0xff))))) <<< 25) ||| ((((u8 (((v0 >>> 17) &&& 0xff))))) <<< 17) ||| ((((u8 (((v0 >>> 9) &&& 0xff))))) <<< 9) ||| ((((u8 (((v0 >>> 1) &&& 0xff))))) <<< 1) ||| ((((u8 (((((v0) &&& 0x1) <<< 7) ||| ((v1 >>> 50) &&& 0x7f)))) >>> 7) &&& 0x1)),
        (((((u8 (((((v0) &&& 0x1) <<< 7) ||| ((v1 >>> 50) &&& 0x7f))))) &&& 0x7f)) <<< 50) ||| ((((u8 (((v1 >>> 42) &&& 0xff))))) <<< 42) ||| ((((u8 (((v1 >>> 34) &&& 0xff))))) <<< 34) ||| ((((u8 (((v1 >>> 26) &&& 0xff))))) <<< 26) ||| ((((u8 (((v1 >>> 18) &&& 0xff))))) <<< 18) ||| ((((u8 (((v1 >>> 10) &&& 0xff))))) <<< 10) ||| ((((u8 (((v1 >>> 2) &&& 0xff))))) <<< 2) ||| ((((u8 (((((v1) &&& 0x3) <<< 6) ||| ((v2 >>> 51) &&& 0x3f)))) >>> 6) &&& 0x3)),
        (((((u8 (((((v1) &&& 0x3) <<< 6) ||| ((v2 >>> 51) &&& 0x3f))))) &&& 0x3f)) <<< 51) ||| ((((u8 (((v2 >>> 43) &&& 0xff))))) <<< 43) ||| ((((u8 (((v2 >>> 35) &&& 0xff))))) <<< 35) ||| ((((u8 (((v2 >>> 27) &&& 0xff))))) <<< 27) ||| ((((u8 (((v2 >>> 19) &&& 0xff))))) <<< 19) ||| ((((u8 (((v2 >>> 11) &&& 0xff))))) <<< 11) ||| ((((u8 (((v2 >>> 3) &&& 0xff))))) <<< 3) ||| ((((u8 (((((v2) &&& 0x7) <<< 5) ||| ((v3 >>> 52) &&& 0x1f)))) >>> 5) &&& 0x7)),
        (((((u8 (((((v2) &&& 0x7) <<< 5) ||| ((v3 >>> 52) &&& 0x1f))))) &&& 0x1f)) <<< 52) ||| ((((u8 (((v3 >>> 44) &&& 0xff))))) <<< 44) ||| ((((u8 (((v3 >>> 36) &&& 0xff))))) <<< 36) ||| ((((u8 (((v3 >>> 28) &&& 0xff))))) <<< 28) ||| ((((u8 (((v3 >>> 20) &&& 0xff))))) <<< 20) ||| ((((u8 (((v3 >>> 12) &&& 0xff))))) <<< 12) ||| ((((u8 (((v3 >>> 4) &&& 0xff))))) <<< 4) ||| ((((u8 (((((v3) &&& 0xf) <<< 4) ||| ((v4 >>> 53) &&& 0xf)))) >>> 4) &&& 0xf)),
        (((((u8 (((((v3) &&& 0xf) <<< 4) ||| ((v4 >>> 53) &&& 0xf))))) &&& 0xf)) <<< 53) ||| ((((u8 (((v4 >>> 45) &&& 0xff))))) <<< 45) ||| ((((u8 (((v4 >>> 37) &&& 0xff))))) <<< 37) ||| ((((u8 (((v4 >>> 29) &&& 0xff))))) <<< 29) ||| ((((u8 (((v4 >>> 21) &&& 0xff))))) <<< 21) ||| ((((u8 (((v4 >>> 13) &&& 0xff))))) <<< 13) ||| ((((u8 (((v4 >>> 5) &&& 0xff))))) <<< 5) ||| ((((u8 (((((v4) &&& 0x1f) <<< 3) ||| ((v5 >>> 54) &&& 0x7)))) >>> 3) &&& 0x1f)),
        (((((u8 (((((v4) &&& 0x1f) <<< 3) ||| ((v5 >>> 54) &&& 0x7))))) &&& 0x7)) <<< 54) ||| ((((u8 (((v5 >>> 46) &&& 0xff))))) <<< 46) ||| ((((u8 (((v5 >>> 38) &&& 0xff))))) <<< 38) ||| ((((u8 (((v5 >>> 30) &&& 0xff))))) <<< 30) ||| ((((u8 (((v5 >>> 22) &&& 0xff))))) <<< 22) ||| ((((u8 (((v5 >>> 14) &&& 0xff))))) <<< 14) ||| ((((u8 (((v5 >>> 6) &&& 0xff))))) <<< 6) ||| ((((u8 (((((v5) &&& 0x3f) <<< 2) ||| ((v6 >>> 55) &&& 0x3)))) >>> 2) &&& 0x3f)),
        (((((u8 (((((v5) &&& 0x3f) <<< 2) ||| ((v6 >>> 55) &&& 0x3))))) &&& 0x3)) <<< 55) ||| ((((u8 (((v6 >>> 47) &&& 0xff))))) <<< 47) ||| ((((u8 (((v6 >>> 39) &&& 0xff))))) <<< 39) ||| ((((u8 (((v6 >>> 31) &&& 0xff))))) <<< 31) ||| ((((u8 (((v6 >>> 23) &&& 0xff))))) <<< 23) ||| ((((u8 (((v6 >>> 15) &&& 0xff))))) <<< 15) ||| ((((u8 (((v6 >>> 7) &&& 0xff))))) <<< 7) ||| ((((u8 (((((v6) &&& 0x7f) <<< 1) ||| ((v7 >>> 56) &&& 0x1)))) >>> 1) &&& 0x7f)),
        (((((u8 (((((v6) &&& 0x7f) <<< 1) ||| ((v7 >>> 56) &&& 0x1))))) &&& 0x1)) <<< 56) ||| ((((u8 (((v7 >>> 48) &&& 0xff))))) <<< 48) ||| ((((u8 (((v7 >>> 40) &&& 0xff))))) <<< 40) ||| ((((u8 (((v7 >>> 32) &&& 0xff))))) <<< 32) ||| ((((u8 (((v7 >>> 24) &&& 0xff))))) <<< 24) ||| ((((u8 (((v7 >>> 16) &&& 0xff))))) <<< 16) ||| ((((u8 (((v7 >>> 8) &&& 0xff))))) <<< 8) ||| (((u8 (((v7) &&& 0xff))))) ] := rfl
  rw [key]
  rw [upb57_c0 v0 v1 h0,
    upb57_c1 v0 v1 v2 h1,
    upb57_c2 v1 v2 v3 h2,
    upb57_c3 v2 v3 v4 h3,
    upb57_c4 v3 v4 v5 h4,
    upb57_c5 v4 v5 v6 h5,
    upb57_c6 v5 v6 v7 h6,
    upb57_c7 v6 v7 h7]

theorem upb58_c0 (v0 v1 : Nat) (hv : v0 < 2 ^ 58) :
    ((((u8 (((v0 >>> 50) &&& 0xff))))) <<< 50) ||| ((((u8 (((v0 >>> 42) &&& 0xff))))) <<< 42) ||| ((((u8 (((v0 >>> 34) &&& 0xff))))) <<< 34) ||| ((((u8 (((v0 >>> 26) &&& 0xff))))) <<< 26) ||| ((((u8 (((v0 >>> 18) &&& 0xff))))) <<< 18) ||| ((((u8 (((v0 >>> 10) &&& 0xff))))) <<< 10) ||| ((((u8 (((v0 >>> 2) &&& 0xff))))) <<< 2) ||| ((((u8 (((((v0) &&& 0x3) <<< 6) ||| ((v1 >>> 52) &&& 0x3f)))) >>> 6) &&& 0x3)) = v0 := by
  rw [step_top v0 58 50 rfl hv]
  rw [step_mid v0 50 42 rfl]
  rw [step_mid v0 42 34 rfl]
  rw [step_mid v0 34 26 rfl]
  rw [step_mid v0 26 18 rfl]
  rw [step_mid v0 18 10 rfl]
  rw [step_mid v0 10 2 rfl]
  rw [step_last v0 (((v1 >>> 52) &&& 0x3f)) 6 2 3 rfl rfl
    (Nat.and_lt_two_pow _ (by norm_num))]

theorem upb58_c1 (v0 v1 v2 : Nat) (hv : v1 < 2 ^ 58) :
    (((((u8 (((((v0) &&& 0x3) <<< 6) ||| ((v1 >>> 52) &&& 0x3f))))) &&& 0x3f)) <<< 52) ||| ((((u8 (((v1 >>> 44) &&& 0xff))))) <<< 44) ||| ((((u8 (((v1 >>> 36) &&& 0xff))))) <<< 36) ||| ((((u8 (((v1 >>> 28) &&& 0xff))))) <<< 28) ||| ((((u8 (((v1 >>> 20) &&& 0xff))))) <<< 20) ||| ((((u8 (((v1 >>> 12) &&& 0xff))))) <<< 12) ||| ((((u8 (((v1 >>> 4) &&& 0xff))))) <<< 4) ||| ((((u8 (((((v1) &&& 0xf) <<< 4) ||| ((v2 >>> 54) &&& 0xf)))) >>> 4) &&& 0xf)) = v1 := by
  rw [step_first (((v0) &&& 0x3)) v1 58 52 6 63 rfl rfl (by norm_num) hv]
  rw [step_mid v1 52 44 rfl]
  rw [step_mid v1 44 36 rfl]
  rw [step_mid v1 36 28 rfl]
  rw [step_mid v1 28 20 rfl]
  rw [step_mid v1 20 12 rfl]
  rw [step_mid v1 12 4 rfl]
  rw [step_last v1 (((v2 >>> 54) &&& 0xf)) 4 4 15 rfl rfl
    (Nat.and_lt_two_pow _ (by norm_num))]

theorem upb58_c2 (v1 v2 v3 : Nat) (hv : v2 < 2 ^ 58) :
    (((((u8 (((((v1) &&& 0xf) <<< 4) ||| ((v2 >>> 54) &&& 0xf))))) &&& 0xf)) <<< 54) ||| ((((u8 (((v2 >>> 46) &&& 0xff))))) <<< 46) ||| ((((u8 (((v2 >>> 38) &&& 0xff))))) <<< 38) ||| ((((u8 (((v2 >>> 30) &&& 0xff))))) <<< 30) ||| ((((u8 (((v2 >>> 22) &&& 0xff))))) <<< 22) ||| ((((u8 (((v2 >>> 14) &&& 0xff))))) <<< 14) ||| ((((u8 (((v2 >>> 6) &&& 0xff))))) <<< 6) ||| ((((u8 (((((v2) &&& 0x3f) <<< 2) ||| ((v3 >>> 56) &&& 0x3)))) >>> 2) &&& 0x3f)) = v2 := by
  rw [step_first (((v1) &&& 0xf)) v2 58 54 4 15 rfl rfl (by norm_num) hv]
  rw [step_mid v2 54 46 rfl]
  rw [step_mid v2 46 38 rfl]
  rw [step_mid v2 38 30 rfl]
  rw [step_mid v2 30 22 rfl]
  rw [step_mid v2 22 14 rfl]
  rw [step_mid v2 14 6 rfl]
  rw [step_last v2 (((v3 >>> 56) &&& 0x3)) 2 6 63 rfl rfl
    (Nat.and_lt_two_pow _ (by norm_num))]

theorem upb58_c3 (v2 v3 : Nat) (hv : v3 < 2 ^ 58) :
    (((((u8 (((((v2) &&& 0x3f) <<< 2) ||| ((v3 >>> 56) &&& 0x3))))) &&& 0x3)) <<< 56) ||| ((((u8 (((v3 >>> 48) &&& 0xff))))) <<< 48) ||| ((((u8 (((v3 >>> 40) &&& 0xff))))) <<< 40) ||| ((((u8 (((v3 >>> 32) &&& 0xff))))) <<< 32) ||| ((((u8 (((v3 >>> 24) &&& 0xff))))) <<< 24) ||| ((((u8 (((v3 >>> 16) &&& 0xff))))) <<< 16) ||| ((((u8 (((v3 >>> 8) &&& 0xff))))) <<< 8) ||| (((u8 (((v3) &&& 0xff))))) = v3 := by
  rw [step_first (((v2) &&& 0x3f)) v3 58 56 2 3 rfl rfl (by norm_num) hv]
  rw [step_mid v3 56 48 rfl]
  rw [step_mid v3 48 40 rfl]
  rw [step_mid v3 40 32 rfl]
  rw [step_mid v3 32 24 rfl]
  rw [step_mid v3 24 16 rfl]
  rw [step_mid v3 16 8 rfl]
  rw [step_low v3]

theorem upb58_c4 (v4 v5 : Nat) (hv : v4 < 2 ^ 58) :
    ((((u8 (((v4 >>> 50) &&& 0xff))))) <<< 50) ||| ((((u8 (((v4 >>> 42) &&& 0xff))))) <<< 42) ||| ((((u8 (((v4 >>> 34) &&& 0xff))))) <<< 34) ||| ((((u8 (((v4 >>> 26) &&& 0xff))))) <<< 26) ||| ((((u8 (((v4 >>> 18) &&& 0xff))))) <<< 18) ||| ((((u8 (((v4 >>> 10) &&& 0xff))))) <<< 10) ||| ((((u8 (((v4 >>> 2) &&& 0xff))))) <<< 2) ||| ((((u8 (((((v4) &&& 0x3) <<< 6) ||| ((v5 >>> 52) &&& 0x3f)))) >>> 6) &&& 0x3)) = v4 := by
  rw [step_top v4 58 50 rfl hv]
  rw [step_mid v4 50 42 rfl]
  rw [step_mid v4 42 34 rfl]
  rw [step_mid v4 34 26 rfl]
  rw [step_mid v4 26 18 rfl]
  rw [step_mid v4 18 10 rfl]
  rw [step_mid v4 10 2 rfl]
  rw [step_last v4 (((v5 >>> 52) &&& 0x3f)) 6 2 3 rfl rfl
    (Nat.and_lt_two_pow _ (by norm_num))]

theorem upb58_c5 (v4 v5 v6 : Nat) (hv : v5 < 2 ^ 58) :
    (((((u8 (((((v4) &&& 0x3) <<< 6) ||| ((v5 >>> 52) &&& 0x3f))))) &&& 0x3f)) <<< 52) ||| ((((u8 (((v5 >>> 44) &&& 0xff))))) <<< 44) ||| ((((u8 (((v5 >>> 36) &&& 0xff))))) <<< 36) ||| ((((u8 (((v5 >>> 28) &&& 0xff))))) <<< 28) ||| ((((u8 (((v5 >>> 20) &&& 0xff))))) <<< 20) ||| ((((u8 (((v5 >>> 12) &&& 0xff))))) <<< 12) ||| ((((u8 (((v5 >>> 4) &&& 0xff))))) <<< 4) ||| ((((u8 (((((v5) &&& 0xf) <<< 4) ||| ((v6 >>> 54) &&& 0xf)))) >>> 4) &&& 0xf)) = v5 := by
  rw [step_first (((v4) &&& 0x3)) v5 58 52 6 63 rfl rfl (by norm_num) hv]
  rw [step_mid v5 52 44 rfl]
  rw [step_mid v5 44 36 rfl]
  rw [step_mid v5 36 28 rfl]
  rw [step_mid v5 28 20 rfl]
  rw [step_mid v5 20 12 rfl]
  rw [step_mid v5 12 4 rfl]
  rw [step_last v5 (((v6 >>> 54) &&& 0xf)) 4 4 15 rfl rfl
    (Nat.and_lt_two_pow _ (by norm_num))]

theorem upb58_c6 (v5 v6 v7 : Nat) (hv : v6 < 2 ^ 58) :
    (((((u8 (((((v5) &&& 0xf) <<< 4) ||| ((v6 >>> 54) &&& 0xf))))) &&& 0xf)) <<< 54) ||| ((((u8 (((v6 >>> 46) &&& 0xff))))) <<< 46) ||| ((((u8 (((v6 >>> 38) &&& 0xff))))) <<< 38) ||| ((((u8 (((v6 >>> 30) &&& 0xff))))) <<< 30) ||| ((((u8 (((v6 >>> 22) &&& 0xff))))) <<< 22) ||| ((((u8 (((v6 >>> 14) &&& 0xff))))) <<< 14) ||| ((((u8 (((v6 >>> 6) &&& 0xff))))) <<< 6) ||| ((((u8 (((((v6) &&& 0x3f) <<< 2) ||| ((v7 >>> 56) &&& 0x3)))) >>> 2) &&& 0x3f)) = v6 := by
  rw [step_first (((v5) &&& 0xf)) v6 58 54 4 15 rfl rfl (by norm_num) hv]
  rw [step_mid v6 54 46 rfl]
  rw [step_mid v6 46 38 rfl]
  rw [step_mid v6 38 30 rfl]
  rw [step_mid v6 30 22 rfl]
  rw [step_mid v6 22 14 rfl]
  rw [step_mid v6 14 6 rfl]
  rw [step_last v6 (((v7 >>> 56) &&& 0x3)) 2 6 63 rfl rfl
    (Nat.and_lt_two_pow _ (by norm_num))]

theorem upb58_c7 (v6 v7 : Nat) (hv : v7 < 2 ^ 58) :
    (((((u8 (((((v6) &&& 0x3f) <<< 2) ||| ((v7 >>> 56) &&& 0x3))))) &&& 0x3)) <<< 56) ||| ((((u8 (((v7 >>> 48) &&& 0xff))))) <<< 48) ||| ((((u8 (((v7 >>> 40) &&& 0xff))))) <<< 40) ||| ((((u8 (((v7 >>> 32) &&& 0xff))))) <<< 32) ||| ((((u8 (((v7 >>> 24) &&& 0xff))))) <<< 24) ||| ((((u8 (((v7 >>> 16) &&& 0xff))))) <<< 16) ||| ((((u8 (((v7 >>> 8) &&& 0xff))))) <<< 8) ||| (((u8 (((v7) &&& 0xff))))) = v7 := by
  rw [step_first (((v6) &&& 0x3f)) v7 58 56 2 3 rfl rfl (by norm_num) hv]
  rw [step_mid v7 56 48 rfl]
  rw [step_mid v7 48 40 rfl]
  rw [step_mid v7 40 32 rfl]
  rw [step_mid v7 32 24 rfl]
  rw [step_mid v7 24 16 rfl]
  rw [step_mid v7 16 8 rfl]
  rw [step_low v7]

theorem unpack_pack_bits_58 (v0 v1 v2 v3 v4 v5 v6 v7 : Nat)
    (h0 : v0 < 2 ^ 58) (h1 : v1 < 2 ^ 58) (h2 : v2 < 2 ^ 58) (h3 : v3 < 2 ^ 58) (h4 : v4 < 2 ^ 58) (h5 : v5 < 2 ^ 58) (h6 : v6 < 2 ^ 58) (h7 : v7 < 2 ^ 58) :
    unpack_bits_58 (pack_bits_58 v0 v1 v2 v3 v4 v5 v6 v7) =
      [v0, v1, v2, v3, v4, v5, v6, v7] := by
  have key : unpack_bits_58 (pack_bits_58 v0 v1 v2 v3 v4 v5 v6 v7) =
      [ ((((u8 (((v0 >>> 50) &&& 0xff))))) <<< 50) ||| ((((u8 (((v0 >>> 42) &&& 0xff))))) <<< 42) ||| ((((u8 (((v0 >>> 34) &&& 0xff))))) <<< 34) ||| ((((u8 (((v0 >>> 26) &&& 0xff))))) <<< 26) ||| ((((u8 (((v0 >>> 18) &&& 0xff))))) <<< 18) ||| ((((u8 (((v0 >>> 10) &&& 0xff))))) <<< 10) ||| ((((u8 (((v0 >>> 2) &&& 0xff))))) <<< 2) ||| ((((u8 (((((v0) &&& 0x3) <<< 6) ||| ((v1 >>> 52) &&& 0x3f)))) >>> 6) &&& 0x3)),
        (((((u8 (((((v0) &&& 0x3) <<< 6) ||| ((v1 >>> 52) &&& 0x3f))))) &&& 0x3f)) <<< 52) ||| ((((u8 (((v1 >>> 44) &&& 0xff))))) <<< 44) ||| ((((u8 (((v1 >>> 36) &&& 0xff))))) <<< 36) ||| ((((u8 (((v1 >>> 28) &&& 0xff))))) <<< 28) ||| ((((u8 (((v1 >>> 20) &&& 0xff))))) <<< 20) ||| ((((u8 (((v1 >>> 12) &&& 0xff))))) <<< 12) ||| ((((u8 (((v1 >>> 4) &&& 0xff))))) <<< 4) ||| ((((u8 (((((v1) &&& 0xf) <<< 4) ||| ((v2 >>> 54) &&& 0xf)))) >>> 4) &&& 0xf)),
        (((((u8 (((((v1) &&& 0xf) <<< 4) ||| ((v2 >>> 54) &&& 0xf))))) &&& 0xf)) <<< 54) ||| ((((u8 (((v2 >>> 46) &&& 0xff))))) <<< 46) ||| ((((u8 (((v2 >>> 38) &&& 0xff))))) <<< 38) ||| ((((u8 (((v2 >>> 30) &&& 0xff))))) <<< 30) ||| ((((u8 (((v2 >>> 22) &&& 0xff))))) <<< 22) ||| ((((u8 (((v2 >>> 14) &&& 0xff))))) <<< 14) ||| ((((u8 (((v2 >>> 6) &&& 0xff))))) <<< 6) ||| ((((u8 (((((v2) &&& 0x3f) <<< 2) ||| ((v3 >>> 56) &&& 0x3)))) >>> 2) &&& 0x3f)),
        (((((u8 (((((v2) &&& 0x3f) <<< 2) ||| ((v3 >>> 56) &&& 0x3))))) &&& 0x3)) <<< 56) ||| ((((u8 (((v3 >>> 48) &&& 0xff))))) <<< 48) ||| ((((u8 (((v3 >>> 40) &&& 0xff))))) <<< 40) ||| ((((u8 (((v3 >>> 32) &&& 0xff))))) <<< 32) ||| ((((u8 (((v3 >>> 24) &&& 0xff))))) <<< 24) ||| ((((u8 (((v3 >>> 16) &&& 0xff))))) <<< 16) ||| ((((u8 (((v3 >>> 8) &&& 0xff))))) <<< 8) ||| (((u8 (((v3) &&& 0xff))))),
        ((((u8 (((v4 >>> 50) &&& 0xff))))) <<< 50) ||| ((((u8 (((v4 >>> 42) &&& 0xff))))) <<< 42) ||| ((((u8 (((v4 >>> 34) &&& 0xff))))) <<< 34) ||| ((((u8 (((v4 >>> 26) &&& 0xff))))) <<< 26) ||| ((((u8 (((v4 >>> 18) &&& 0xff))))) <<< 18) ||| ((((u8 (((v4 >>> 10) &&& 0xff))))) <<< 10) ||| ((((u8 (((v4 >>> 2) &&& 0xff))))) <<< 2) ||| ((((u8 (((((v4) &&& 0x3) <<< 6) ||| ((v5 >>> 52) &&& 0x3f)))) >>> 6) &&& 0x3)),
        (((((u8 (((((v4) &&& 0x3) <<< 6) ||| ((v5 >>> 52) &&& 0x3f))))) &&& 0x3f)) <<< 52) ||| ((((u8 (((v5 >>> 44) &&& 0xff))))) <<< 44) ||| ((((u8 (((v5 >>> 36) &&& 0xff))))) <<< 36) ||| ((((u8 (((v5 >>> 28) &&& 0xff))))) <<< 28) ||| ((((u8 (((v5 >>> 20) &&& 0xff))))) <<< 20) ||| ((((u8 (((v5 >>> 12) &&& 0xff))))) <<< 12) ||| ((((u8 (((v5 >>> 4) &&& 0xff))))) <<< 4) ||| ((((u8 (((((v5) &&& 0xf) <<< 4) ||| ((v6 >>> 54) &&& 0xf)))) >>> 4) &&& 0xf)),
        (((((u8 (((((v5) &&& 0xf) <<< 4) ||| ((v6 >>> 54) &&& 0xf))))) &&& 0xf)) <<< 54) ||| ((((u8 (((v6 >>> 46) &&& 0xff))))) <<< 46) ||| ((((u8 (((v6 >>> 38) &&& 0xff))))) <<< 38) ||| ((((u8 (((v6 >>> 30) &&& 0xff))))) <<< 30) ||| ((((u8 (((v6 >>> 22) &&& 0xff))))) <<< 22) ||| ((((u8 (((v6 >>> 14) &&& 0xff))))) <<< 14) ||| ((((u8 (((v6 >>> 6) &&& 0xff))))) <<< 6) ||| ((((u8 (((((v6) &&& 0x3f) <<< 2) ||| ((v7 >>> 56) &&& 0x3)))) >>> 2) &&& 0x3f)),
        (((((u8 (((((v6) &&& 0x3f) <<< 2) ||| ((v7 >>> 56) &&& 0x3))))) &&& 0x3)) <<< 56) ||| ((((u8 (((v7 >>> 48) &&& 0xff))))) <<< 48) ||| ((((u8 (((v7 >>> 40) &&& 0xff))))) <<< 40) ||| ((((u8 (((v7 >>> 32) &&& 0xff))))) <<< 32) ||| ((((u8 (((v7 >>> 24) &&& 0xff))))) <<< 24) ||| ((((u8 (((v7 >>> 16) &&& 0xff))))) <<< 16) ||| ((((u8 (((v7 >>> 8) &&& 0xff))))) <<< 8) ||| (((u8 (((v7) &&& 0xff))))) ] := rfl
  rw [key]
  rw [upb58_c0 v0 v1 h0,
    upb58_c1 v0 v1 v2 h1,
    upb58_c2 v1 v2 v3 h2,
    upb58_c3 v2 v3 h3,
    upb58_c4 v4 v5 h4,
    upb58_c5 v4 v5 v6 h5,
    upb58_c6 v5 v6 v7 h6,
    upb58_c7 v6 v7 h7]

theorem upb59_c0 (v0 v1 : Nat) (hv : v0 < 2 ^ 59) :
    ((((u8 (((v0 >>> 51) &&& 0xff))))) <<< 51) ||| ((((u8 (((v0 >>> 43) &&& 0xff))))) <<< 43) ||| ((((u8 (((v0 >>> 35) &&& 0xff))))) <<< 35) ||| ((((u8 (((v0 >>> 27) &&& 0xff))))) <<< 27) ||| ((((u8 (((v0 >>> 19) &&& 0xff))))) <<< 19) ||| ((((u8 (((v0 >>> 11) &&& 0xff))))) <<< 11) ||| ((((u8 (((v0 >>> 3) &&& 0xff))))) <<< 3) ||| ((((u8 (((((v0) &&& 0x7) <<< 5) ||| ((v1 >>> 54) &&& 0x1f)))) >>> 5) &&& 0x7)) = v0 := by
  rw [step_top v0 59 51 rfl hv]
  rw [step_mid v0 51 43 rfl]
  rw [step_mid v0 43 35 rfl]
  rw [step_mid v0 35 27 rfl]
  rw [step_mid v0 27 19 rfl]
  rw [step_mid v0 19 11 rfl]
  rw [step_mid v0 11 3 rfl]
  rw [step_last v0 (((v1 >>> 54) &&& 0x1f)) 5 3 7 rfl rfl
    (Nat.and_lt_two_pow _ (by norm_num))]

theorem upb59_c1 (v0 v1 v2 : Nat) (hv : v1 < 2 ^ 59) :
    (((((u8 (((((v0) &&& 0x7) <<< 5) ||| ((v1 >>> 54) &&& 0x1f))))) &&& 0x1f)) <<< 54) ||| ((((u8 (((v1 >>> 46) &&& 0xff))))) <<< 46) ||| ((((u8 (((v1 >>> 38) &&& 0xff))))) <<< 38) ||| ((((u8 (((v1 >>> 30) &&& 0xff))))) <<< 30) ||| ((((u8 (((v1 >>> 22) &&& 0xff))))) <<< 22) ||| ((((u8 (((v1 >>> 14) &&& 0xff))))) <<< 14) ||| ((((u8 (((v1 >>> 6) &&& 0xff))))) <<< 6) ||| ((((u8 (((((v1) &&& 0x3f) <<< 2) ||| ((v2 >>> 57) &&& 0x3)))) >>> 2) &&& 0x3f)) = v1 := by
  rw [step_first (((v0) &&& 0x7)) v1 59 54 5 31 rfl rfl (by norm_num) hv]
  rw [step_mid v1 54 46 rfl]
  rw [step_mid v1 46 38 rfl]
  rw [step_mid v1 38 30 rfl]
  rw [step_mid v1 30 22 rfl]
  rw [step_mid v1 22 14 rfl]
  rw [step_mid v1 14 6 rfl]
  rw [step_last v1 (((v2 >>> 57) &&& 0x3)) 2 6 63 rfl rfl
    (Nat.and_lt_two_pow _ (by norm_num))]

theorem upb59_c2 (v1 v2 v3 : Nat) (hv : v2 < 2 ^ 59) :
    (((((u8 (((((v1) &&& 0x3f) <<< 2) ||| ((v2 >>> 57) &&& 0x3))))) &&& 0x3)) <<< 57) ||| ((((u8 (((v2 >>> 49) &&& 0xff))))) <<< 49) ||| ((((u8 (((v2 >>> 41) &&& 0xff))))) <<< 41) ||| ((((u8 (((v2 >>> 33) &&& 0xff))))) <<< 33) ||| ((((u8 (((v2 >>> 25) &&& 0xff))))) <<< 25) ||| ((((u8 (((v2 >>> 17) &&& 0xff))))) <<< 17) ||| ((((u8 (((v2 >>> 9) &&& 0xff))))) <<< 9) ||| ((((u8 (((v2 >>> 1) &&& 0xff))))) <<< 1) ||| ((((u8 (((((v2) &&& 0x1) <<< 7) ||| ((v3 >>> 52) &&& 0x7f)))) >>> 7) &&& 0x1)) = v2 := by
  rw [step_first (((v1) &&& 0x3f)) v2 59 57 2 3 rfl rfl (by norm_num) hv]
  rw [step_mid v2 57 49 rfl]
  rw [step_mid v2 49 41 rfl]
  rw [step_mid v2 41 33 rfl]
  rw [step_mid v2 33 25 rfl]
  rw [step_mid v2 25 17 rfl]
  rw [step_mid v2 17 9 rfl]
  rw [step_mid v2 9 1 rfl]
  rw [step_last v2 (((v3 >>> 52) &&& 0x7f)) 7 1 1 rfl rfl
    (Nat.and_lt_two_pow _ (by norm_num))]

theorem upb59_c3 (v2 v3 v4 : Nat) (hv : v3 < 2 ^ 59) :
    (((((u8 (((((v2) &&& 0x1) <<< 7) ||| ((v3 >>> 52) &&& 0x7f))))) &&& 0x7f)) <<< 52) ||| ((((u8 (((v3 >>> 44) &&& 0xff))))) <<< 44) ||| ((((u8 (((v3 >>> 36) &&& 0xff))))) <<< 36) ||| ((((u8 (((v3 >>> 28) &&& 0xff))))) <<< 28) ||| ((((u8 (((v3 >>> 20) &&& 0xff))))) <<< 20) ||| ((((u8 (((v3 >>> 12) &&& 0xff))))) <<< 12) ||| ((((u8 (((v3 >>> 4) &&& 0xff))))) <<< 4) ||| ((((u8 (((((v3) &&& 0xf) <<< 4) ||| ((v4 >>> 55) &&& 0xf)))) >>> 4) &&& 0xf)) = v3 := by
  rw [step_first (((v2) &&& 0x1)) v3 59 52 7 127 rfl rfl (by norm_num) hv]
  rw [step_mid v3 52 44 rfl]
  rw [step_mid v3 44 36 rfl]
  rw [step_mid v3 36 28 rfl]
  rw [step_mid v3 28 20 rfl]
  rw [step_mid v3 20 12 rfl]
  rw [step_mid v3 12 4 rfl]
  rw [step_last v3 (((v4 >>> 55) &&& 0xf)) 4 4 15 rfl rfl
    (Nat.and_lt_two_pow _ (by norm_num))]

theorem upb59_c4 (v3 v4 v5 : Nat) (hv : v4 < 2 ^ 59) :
    (((((u8 (((((v3) &&& 0xf) <<< 4) ||| ((v4 >>> 55) &&& 0xf))))) &&& 0xf)) <<< 55) ||| ((((u8 (((v4 >>> 47) &&& 0xff))))) <<< 47) ||| ((((u8 (((v4 >>> 39) &&& 0xff))))) <<< 39) ||| ((((u8 (((v4 >>> 31) &&& 0xff))))) <<< 31) ||| ((((u8 (((v4 >>> 23) &&& 0xff))))) <<< 23) ||| ((((u8 (((v4 >>> 15) &&& 0xff))))) <<< 15) ||| ((((u8 (((v4 >>> 7) &&& 0xff))))) <<< 7) ||| ((((u8 (((((v4) &&& 0x7f) <<< 1) ||| ((v5 >>> 58) &&& 0x1)))) >>> 1) &&& 0x7f)) = v4 := by
  rw [step_first (((v3) &&& 0xf)) v4 59 55 4 15 rfl rfl (by norm_num) hv]
  rw [step_mid v4 55 47 rfl]
  rw [step_mid v4 47 39 rfl]
  rw [step_mid v4 39 31 rfl]
  rw [step_mid v4 31 23 rfl]
  rw [step_mid v4 23 15 rfl]
  rw [step_mid v4 15 7 rfl]
  rw [step_last v4 (((v5 >>> 58) &&& 0x1)) 1 7 127 rfl rfl
    (Nat.and_lt_two_pow _ (by norm_num))]

theorem upb59_c5 (v4 v5 v6 : Nat) (hv : v5 < 2 ^ 59) :
    (((((u8 (((((v4) &&& 0x7f) <<< 1) ||| ((v5 >>> 58) &&& 0x1))))) &&& 0x1)) <<< 58) ||| ((((u8 (((v5 >>> 50) &&& 0xff))))) <<< 50) ||| ((((u8 (((v5 >>> 42) &&& 0xff))))) <<< 42) ||| ((((u8 (((v5 >>> 34) &&& 0xff))))) <<< 34) ||| ((((u8 (((v5 >>> 26) &&& 0xff))))) <<< 26) ||| ((((u8 (((v5 >>> 18) &&& 0xff))))) <<< 18) ||| ((((u8 (((v5 >>> 10) &&& 0xff))))) <<< 10) ||| ((((u8 (((v5 >>> 2) &&& 0xff))))) <<< 2) ||| ((((u8 (((((v5) &&& 0x3) <<< 6) ||| ((v6 >>> 53) &&& 0x3f)))) >>> 6) &&& 0x3)) = v5 := by
  rw [step_first (((v4) &&& 0x7f)) v5 59 58 1 1 rfl rfl (by norm_num) hv]
  rw [step_mid v5 58 50 rfl]
  rw [step_mid v5 50 42 rfl]
  rw [step_mid v5 42 34 rfl]
  rw [step_mid v5 34 26 rfl]
  rw [step_mid v5 26 18 rfl]
  rw [step_mid v5 18 10 rfl]
  rw [step_mid v5 10 2 rfl]
  rw [step_last v5 (((v6 >>> 53) &&& 0x3f)) 6 2 3 rfl rfl
    (Nat.and_lt_two_pow _ (by norm_num))]

theorem upb59_c6 (v5 v6 v7 : Nat) (hv : v6 < 2 ^ 59) :
    (((((u8 (((((v5) &&& 0x3) <<< 6) ||| ((v6 >>> 53) &&& 0x3f))))) &&& 0x3f)) <<< 53) ||| ((((u8 (((v6 >>> 45) &&& 0xff))))) <<< 45) ||| ((((u8 (((v6 >>> 37) &&& 0xff))))) <<< 37) ||| ((((u8 (((v6 >>> 29) &&& 0xff))))) <<< 29) ||| ((((u8 (((v6 >>> 21) &&& 0xff))))) <<< 21) ||| ((((u8 (((v6 >>> 13) &&& 0xff))))) <<< 13) ||| ((((u8 (((v6 >>> 5) &&& 0xff))))) <<< 5) ||| ((((u8 (((((v6) &&& 0x1f) <<< 3) ||| ((v7 >>> 56) &&& 0x7)))) >>> 3) &&& 0x1f)) = v6 := by
  rw [step_first (((v5) &&& 0x3)) v6 59 53 6 63 rfl rfl (by norm_num) hv]
  rw [step_mid v6 53 45 rfl]
  rw [step_mid v6 45 37 rfl]
  rw [step_mid v6 37 29 rfl]
  rw [step_mid v6 29 21 rfl]
  rw [step_mid v6 21 13 rfl]
  rw [step_mid v6 13 5 rfl]
  rw [step_last v6 (((v7 >>> 56) &&& 0x7)) 3 5 31 rfl rfl
    (Nat.and_lt_two_pow _ (by norm_num))]

theorem upb59_c7 (v6 v7 : Nat) (hv : v7 < 2 ^ 59) :
    (((((u8 (((((v6) &&& 0x1f) <<< 3) ||| ((v7 >>> 56) &&& 0x7))))) &&& 0x7)) <<< 56) ||| ((((u8 (((v7 >>> 48) &&& 0xff))))) <<< 48) ||| ((((u8 (((v7 >>> 40) &&& 0xff))))) <<< 40) ||| ((((u8 (((v7 >>> 32) &&& 0xff))))) <<< 32) ||| ((((u8 (((v7 >>> 24) &&& 0xff))))) <<< 24) ||| ((((u8 (((v7 >>> 16) &&& 0xff))))) <<< 16) ||| ((((u8 (((v7 >>> 8) &&& 0xff))))) <<< 8) ||| (((u8 (((v7) &&& 0xff))))) = v7 := by
  rw [step_first (((v6) &&& 0x1f)) v7 59 56 3 7 rfl rfl (by norm_num) hv]
  rw [step_mid v7 56 48 rfl]
  rw [step_mid v7 48 40 rfl]
  rw [step_mid v7 40 32 rfl]
  rw [step_mid v7 32 24 rfl]
  rw [step_mid v7 24 16 rfl]
  rw [step_mid v7 16 8 rfl]
  rw [step_low v7]

theorem unpack_pack_bits_59 (v0 v1 v2 v3 v4 v5 v6 v7 : Nat)
    (h0 : v0 < 2 ^ 59) (h1 : v1 < 2 ^ 59) (h2 : v2 < 2 ^ 59) (h3 : v3 < 2 ^ 59) (h4 : v4 < 2 ^ 59) (h5 : v5 < 2 ^ 59) (h6 : v6 < 2 ^ 59) (h7 : v7 < 2 ^ 59) :
    unpack_bits_59 (pack_bits_59 v0 v1 v2 v3 v4 v5 v6 v7) =
      [v0, v1, v2, v3, v4, v5, v6, v7] := by
  have key : unpack_bits_59 (pack_bits_59 v0 v1 v2 v3 v4 v5 v6 v7) =
      [ ((((u8 (((v0 >>> 51) &&& 0xff))))) <<< 51) ||| ((((u8 (((v0 >>> 43) &&& 0xff))))) <<< 43) ||| ((((u8 (((v0 >>> 35) &&& 0xff))))) <<< 35) ||| ((((u8 (((v0 >>> 27) &&& 0xff))))) <<< 27) ||| ((((u8 (((v0 >>> 19) &&& 0xff))))) <<< 19) ||| ((((u8 (((v0 >>> 11) &&& 0xff))))) <<< 11) ||| ((((u8 (((v0 >>> 3) &&& 0xff))))) <<< 3) ||| ((((u8 (((((v0) &&& 0x7) <<< 5) ||| ((v1 >>> 54) &&& 0x1f)))) >>> 5) &&& 0x7)),
        (((((u8 (((((v0) &&& 0x7) <<< 5) ||| ((v1 >>> 54) &&& 0x1f))))) &&& 0x1f)) <<< 54) ||| ((((u8 (((v1 >>> 46) &&& 0xff))))) <<< 46) ||| ((((u8 (((v1 >>> 38) &&& 0xff))))) <<< 38) ||| ((((u8 (((v1 >>> 30) &&& 0xff))))) <<< 30) ||| ((((u8 (((v1 >>> 22) &&& 0xff))))) <<< 22) ||| ((((u8 (((v1 >>> 14) &&& 0xff))))) <<< 14) ||| ((((u8 (((v1 >>> 6) &&& 0xff))))) <<< 6) ||| ((((u8 (((((v1) &&& 0x3f) <<< 2) ||| ((v2 >>> 57) &&& 0x3)))) >>> 2) &&& 0x3f)),
        (((((u8 (((((v1) &&& 0x3f) <<< 2) ||| ((v2 >>> 57) &&& 0x3))))) &&& 0x3)) <<< 57) ||| ((((u8 (((v2 >>> 49) &&& 0xff))))) <<< 49) ||| ((((u8 (((v2 >>> 41) &&& 0xff))))) <<< 41) ||| ((((u8 (((v2 >>> 33) &&& 0xff))))) <<< 33) ||| ((((u8 (((v2 >>> 25) &&& 0xff))))) <<< 25) ||| ((((u8 (((v2 >>> 17) &&& 0xff))))) <<< 17) ||| ((((u8 (((v2 >>> 9) &&& 0xff))))) <<< 9) ||| ((((u8 (((v2 >>> 1) &&& 0xff))))) <<< 1) ||| ((((u8 (((((v2) &&& 0x1) <<< 7) ||| ((v3 >>> 52) &&& 0x7f)))) >>> 7) &&& 0x1)),
        (((((u8 (((((v2) &&& 0x1) <<< 7) ||| ((v3 >>> 52) &&& 0x7f))))) &&& 0x7f)) <<< 52) ||| ((((u8 (((v3 >>> 44) &&& 0xff))))) <<< 44) ||| ((((u8 (((v3 >>> 36) &&& 0xff))))) <<< 36) ||| ((((u8 (((v3 >>> 28) &&& 0xff))))) <<< 28) ||| ((((u8 (((v3 >>> 20) &&& 0xff))))) <<< 20) ||| ((((u8 (((v3 >>> 12) &&& 0xff))))) <<< 12) ||| ((((u8 (((v3 >>> 4) &&& 0xff))))) <<< 4) ||| ((((u8 (((((v3) &&& 0xf) <<< 4) ||| ((v4 >>> 55) &&& 0xf)))) >>> 4) &&& 0xf)),
        (((((u8 (((((v3) &&& 0xf) <<< 4) ||| ((v4 >>> 55) &&& 0xf))))) &&& 0xf)) <<< 55) ||| ((((u8 (((v4 >>> 47) &&& 0xff))))) <<< 47) ||| ((((u8 (((v4 >>> 39) &&& 0xff))))) <<< 39) ||| ((((u8 (((v4 >>> 31) &&& 0xff))))) <<< 31) ||| ((((u8 (((v4 >>> 23) &&& 0xff))))) <<< 23) ||| ((((u8 (((v4 >>> 15) &&& 0xff))))) <<< 15) ||| ((((u8 (((v4 >>> 7) &&& 0xff))))) <<< 7) ||| ((((u8 (((((v4) &&& 0x7f) <<< 1) ||| ((v5 >>> 58) &&& 0x1)))) >>> 1) &&& 0x7f)),
        (((((u8 (((((v4) &&& 0x7f) <<< 1) ||| ((v5 >>> 58) &&& 0x1))))) &&& 0x1)) <<< 58) ||| ((((u8 (((v5 >>> 50) &&& 0xff))))) <<< 50) ||| ((((u8 (((v5 >>> 42) &&& 0xff))))) <<< 42) ||| ((((u8 (((v5 >>> 34) &&& 0xff))))) <<< 34) ||| ((((u8 (((v5 >>> 26) &&& 0xff))))) <<< 26) ||| ((((u8 (((v5 >>> 18) &&& 0xff))))) <<< 18) ||| ((((u8 (((v5 >>> 10) &&& 0xff))))) <<< 10) ||| ((((u8 (((v5 >>> 2) &&& 0xff))))) <<< 2) ||| ((((u8 (((((v5) &&& 0x3) <<< 6) ||| ((v6 >>> 53) &&& 0x3f)))) >>> 6) &&& 0x3)),
        (((((u8 (((((v5) &&& 0x3) <<< 6) ||| ((v6 >>> 53) &&& 0x3f))))) &&& 0x3f)) <<< 53) ||| ((((u8 (((v6 >>> 45) &&& 0xff))))) <<< 45) ||| ((((u8 (((v6 >>> 37) &&& 0xff))))) <<< 37) ||| ((((u8 (((v6 >>> 29) &&& 0xff))))) <<< 29) ||| ((((u8 (((v6 >>> 21) &&& 0xff))))) <<< 21) ||| ((((u8 (((v6 >>> 13) &&& 0xff))))) <<< 13) ||| ((((u8 (((v6 >>> 5) &&& 0xff))))) <<< 5) ||| ((((u8 (((((v6) &&& 0x1f) <<< 3) ||| ((v7 >>> 56) &&& 0x7)))) >>> 3) &&& 0x1f)),
        (((((u8 (((((v6) &&& 0x1f) <<< 3) ||| ((v7 >>> 56) &&& 0x7))))) &&& 0x7)) <<< 56) ||| ((((u8 (((v7 >>> 48) &&& 0xff))))) <<< 48) ||| ((((u8 (((v7 >>> 40) &&& 0xff))))) <<< 40) ||| ((((u8 (((v7 >>> 32) &&& 0xff))))) <<< 32) ||| ((((u8 (((v7 >>> 24) &&& 0xff))))) <<< 24) ||| ((((u8 (((v7 >>> 16) &&& 0xff))))) <<< 16) ||| ((((u8 (((v7 >>> 8) &&& 0xff))))) <<< 8) ||| (((u8 (((v7) &&& 0xff))))) ] := rfl
  rw [key]
  rw [upb59_c0 v0 v1 h0,
    upb59_c1 v0 v1 v2 h1,
    upb59_c2 v1 v2 v3 h2,
    upb59_c3 v2 v3 v4 h3,
    upb59_c4 v3 v4 v5 h4,
    upb59_c5 v4 v5 v6 h5,
    upb59_c6 v5 v6 v7 h6,
    upb59_c7 v6 v7 h7]

theorem upb60_c0 (v0 v1 : Nat) (hv : v0 < 2 ^ 60) :
    ((((u8 (((v0 >>> 52) &&& 0xff))))) <<< 52) ||| ((((u8 (((v0 >>> 44) &&& 0xff))))) <<< 44) ||| ((((u8 (((v0 >>> 36) &&& 0xff))))) <<< 36) ||| ((((u8 (((v0 >>> 28) &&& 0xff))))) <<< 28) ||| ((((u8 (((v0 >>> 20) &&& 0xff))))) <<< 20) ||| ((((u8 (((v0 >>> 12) &&& 0xff))))) <<< 12) ||| ((((u8 (((v0 >>> 4) &&& 0xff))))) <<< 4) ||| ((((u8 (((((v0) &&& 0xf) <<< 4) ||| ((v1 >>> 56) &&& 0xf)))) >>> 4) &&& 0xf)) = v0 := by
  rw [step_top v0 60 52 rfl hv]
  rw [step_mid v0 52 44 rfl]
  rw [step_mid v0 44 36 rfl]
  rw [step_mid v0 36 28 rfl]
  rw [step_mid v0 28 20 rfl]
  rw [step_mid v0 20 12 rfl]
  rw [step_mid v0 12 4 rfl]
  rw [step_last v0 (((v1 >>> 56) &&& 0xf)) 4 4 15 rfl rfl
    (Nat.and_lt_two_pow _ (by norm_num))]

theorem upb60_c1 (v0 v1 : Nat) (hv : v1 < 2 ^ 60) :
    (((((u8 (((((v0) &&& 0xf) <<< 4) ||| ((v1 >>> 56) &&& 0xf))))) &&& 0xf)) <<< 56) ||| ((((u8 (((v1 >>> 48) &&& 0xff))))) <<< 48) ||| ((((u8 (((v1 >>> 40) &&& 0xff))))) <<< 40) ||| ((((u8 (((v1 >>> 32) &&& 0xff))))) <<< 32) ||| ((((u8 (((v1 >>> 24) &&& 0xff))))) <<< 24) ||| ((((u8 (((v1 >>> 16) &&& 0xff))))) <<< 16) ||| ((((u8 (((v1 >>> 8) &&& 0xff))))) <<< 8) ||| (((u8 (((v1) &&& 0xff))))) = v1 := by
  rw [step_first (((v0) &&& 0xf)) v1 60 56 4 15 rfl rfl (by norm_num) hv]
  rw [step_mid v1 56 48 rfl]
  rw [step_mid v1 48 40 rfl]
  rw [step_mid v1 40 32 rfl]
  rw [step_mid v1 32 24 rfl]
  rw [step_mid v1 24 16 rfl]
  rw [step_mid v1 16 8 rfl]
  rw [step_low v1]

theorem upb60_c2 (v2 v3 : Nat) (hv : v2 < 2 ^ 60) :
    ((((u8 (((v2 >>> 52) &&& 0xff))))) <<< 52) ||| ((((u8 (((v2 >>> 44) &&& 0xff))))) <<< 44) ||| ((((u8 (((v2 >>> 36) &&& 0xff))))) <<< 36) ||| ((((u8 (((v2 >>> 28) &&& 0xff))))) <<< 28) ||| ((((u8 (((v2 >>> 20) &&& 0xff))))) <<< 20) ||| ((((u8 (((v2 >>> 12) &&& 0xff))))) <<< 12) ||| ((((u8 (((v2 >>> 4) &&& 0xff))))) <<< 4) ||| ((((u8 (((((v2) &&& 0xf) <<< 4) ||| ((v3 >>> 56) &&& 0xf)))) >>> 4) &&& 0xf)) = v2 := by
  rw [step_top v2 60 52 rfl hv]
  rw [step_mid v2 52 44 rfl]
  rw [step_mid v2 44 36 rfl]
  rw [step_mid v2 36 28 rfl]
  rw [step_mid v2 28 20 rfl]
  rw [step_mid v2 20 12 rfl]
  rw [step_mid v2 12 4 rfl]
  rw [step_last v2 (((v3 >>> 56) &&& 0xf)) 4 4 15 rfl rfl
    (Nat.and_lt_two_pow _ (by norm_num))]

theorem upb60_c3 (v2 v3 : Nat) (hv : v3 < 2 ^ 60) :
    (((((u8 (((((v2) &&& 0xf) <<< 4) ||| ((v3 >>> 56) &&& 0xf))))) &&& 0xf)) <<< 56) ||| ((((u8 (((v3 >>> 48) &&& 0xff))))) <<< 48) ||| ((((u8 (((v3 >>> 40) &&& 0xff))))) <<< 40) ||| ((((u8 (((v3 >>> 32) &&& 0xff))))) <<< 32) ||| ((((u8 (((v3 >>> 24) &&& 0xff))))) <<< 24) ||| ((((u8 (((v3 >>> 16) &&& 0xff))))) <<< 16) ||| ((((u8 (((v3 >>> 8) &&& 0xff))))) <<< 8) ||| (((u8 (((v3) &&& 0xff))))) = v3 := by
  rw [step_first (((v2) &&& 0xf)) v3 60 56 4 15 rfl rfl (by norm_num) hv]
  rw [step_mid v3 56 48 rfl]
  rw [step_mid v3 48 40 rfl]
  rw [step_mid v3 40 32 rfl]
  rw [step_mid v3 32 24 rfl]
  rw [step_mid v3 24 16 rfl]
  rw [step_mid v3 16 8 rfl]
  rw [step_low v3]

theorem upb60_c4 (v4 v5 : Nat) (hv : v4 < 2 ^ 60) :
    ((((u8 (((v4 >>> 52) &&& 0xff))))) <<< 52) ||| ((((u8 (((v4 >>> 44) &&& 0xff))))) <<< 44) ||| ((((u8 (((v4 >>> 36) &&& 0xff))))) <<< 36) ||| ((((u8 (((v4 >>> 28) &&& 0xff))))) <<< 28) ||| ((((u8 (((v4 >>> 20) &&& 0xff))))) <<< 20) ||| ((((u8 (((v4 >>> 12) &&& 0xff))))) <<< 12) ||| ((((u8 (((v4 >>> 4) &&& 0xff))))) <<< 4) ||| ((((u8 (((((v4) &&& 0xf) <<< 4) ||| ((v5 >>> 56) &&& 0xf)))) >>> 4) &&& 0xf)) = v4 := by
  rw [step_top v4 60 52 rfl hv]
  rw [step_mid v4 52 44 rfl]
  rw [step_mid v4 44 36 rfl]
  rw [step_mid v4 36 28 rfl]
  rw [step_mid v4 28 20 rfl]
  rw [step_mid v4 20 12 rfl]
  rw [step_mid v4 12 4 rfl]
  rw [step_last v4 (((v5 >>> 56) &&& 0xf)) 4 4 15 rfl rfl
    (Nat.and_lt_two_pow _ (by norm_num))]

theorem upb60_c5 (v4 v5 : Nat) (hv : v5 < 2 ^ 60) :
    (((((u8 (((((v4) &&& 0xf) <<< 4) ||| ((v5 >>> 56) &&& 0xf))))) &&& 0xf)) <<< 56) ||| ((((u8 (((v5 >>> 48) &&& 0xff))))) <<< 48) ||| ((((u8 (((v5 >>> 40) &&& 0xff))))) <<< 40) ||| ((((u8 (((v5 >>> 32) &&& 0xff))))) <<< 32) ||| ((((u8 (((v5 >>> 24) &&& 0xff))))) <<< 24) ||| ((((u8 (((v5 >>> 16) &&& 0xff))))) <<< 16) ||| ((((u8 (((v5 >>> 8) &&& 0xff))))) <<< 8) ||| (((u8 (((v5) &&& 0xff))))) = v5 := by
  rw [step_first (((v4) &&& 0xf)) v5 60 56 4 15 rfl rfl (by norm_num) hv]
  rw [step_mid v5 56 48 rfl]
  rw [step_mid v5 48 40 rfl]
  rw [step_mid v5 40 32 rfl]
  rw [step_mid v5 32 24 rfl]
  rw [step_mid v5 24 16 rfl]
  rw [step_mid v5 16 8 rfl]
  rw [step_low v5]

theorem upb60_c6 (v6 v7 : Nat) (hv : v6 < 2 ^ 60) :
    ((((u8 (((v6 >>> 52) &&& 0xff))))) <<< 52) ||| ((((u8 (((v6 >>> 44) &&& 0xff))))) <<< 44) ||| ((((u8 (((v6 >>> 36) &&& 0xff))))) <<< 36) ||| ((((u8 (((v6 >>> 28) &&& 0xff))))) <<< 28) ||| ((((u8 (((v6 >>> 20) &&& 0xff))))) <<< 20) ||| ((((u8 (((v6 >>> 12) &&& 0xff))))) <<< 12) ||| ((((u8 (((v6 >>> 4) &&& 0xff))))) <<< 4) ||| ((((u8 (((((v6) &&& 0xf) <<< 4) ||| ((v7 >>> 56) &&& 0xf)))) >>> 4) &&& 0xf)) = v6 := by
  rw [step_top v6 60 52 rfl hv]
  rw [step_mid v6 52 44 rfl]
  rw [step_mid v6 44 36 rfl]
  rw [step_mid v6 36 28 rfl]
  rw [step_mid v6 28 20 rfl]
  rw [step_mid v6 20 12 rfl]
  rw [step_mid v6 12 4 rfl]
  rw [step_last v6 (((v7 >>> 56) &&& 0xf)) 4 4 15 rfl rfl
    (Nat.and_lt_two_pow _ (by norm_num))]

theorem upb60_c7 (v6 v7 : Nat) (hv : v7 < 2 ^ 60) :
    (((((u8 (((((v6) &&& 0xf) <<< 4) ||| ((v7 >>> 56) &&& 0xf))))) &&& 0xf)) <<< 56) ||| ((((u8 (((v7 >>> 48) &&& 0xff))))) <<< 48) ||| ((((u8 (((v7 >>> 40) &&& 0xff))))) <<< 40) ||| ((((u8 (((v7 >>> 32) &&& 0xff))))) <<< 32) ||| ((((u8 (((v7 >>> 24) &&& 0xff))))) <<< 24) ||| ((((u8 (((v7 >>> 16) &&& 0xff))))) <<< 16) ||| ((((u8 (((v7 >>> 8) &&& 0xff))))) <<< 8) ||| (((u8 (((v7) &&& 0xff))))) = v7 := by
  rw [step_first (((v6) &&& 0xf)) v7 60 56 4 15 rfl rfl (by norm_num) hv]
  rw [step_mid v7 56 48 rfl]
  rw [step_mid v7 48 40 rfl]
  rw [step_mid v7 40 32 rfl]
  rw [step_mid v7 32 24 rfl]
  rw [step_mid v7 24 16 rfl]
  rw [step_mid v7 16 8 rfl]
  rw [step_low v7]

theorem unpack_pack_bits_60 (v0 v1 v2 v3 v4 v5 v6 v7 : Nat)
    (h0 : v0 < 2 ^ 60) (h1 : v1 < 2 ^ 60) (h2 : v2 < 2 ^ 60) (h3 : v3 < 2 ^ 60) (h4 : v4 < 2 ^ 60) (h5 : v5 < 2 ^ 60) (h6 : v6 < 2 ^ 60) (h7 : v7 < 2 ^ 60) :
    unpack_bits_60 (pack_bits_60 v0 v1 v2 v3 v4 v5 v6 v7) =
      [v0, v1, v2, v3, v4, v5, v6, v7] := by
  have key : unpack_bits_60 (pack_bits_60 v0 v1 v2 v3 v4 v5 v6 v7) =
      [ ((((u8 (((v0 >>> 52) &&& 0xff))))) <<< 52) ||| ((((u8 (((v0 >>> 44) &&& 0xff))))) <<< 44) ||| ((((u8 (((v0 >>> 36) &&& 0xff))))) <<< 36) ||| ((((u8 (((v0 >>> 28) &&& 0xff))))) <<< 28) ||| ((((u8 (((v0 >>> 20) &&& 0xff))))) <<< 20) ||| ((((u8 (((v0 >>> 12) &&& 0xff))))) <<< 12) ||| ((((u8 (((v0 >>> 4) &&& 0xff))))) <<< 4) ||| ((((u8 (((((v0) &&& 0xf) <<< 4) ||| ((v1 >>> 56) &&& 0xf)))) >>> 4) &&& 0xf)),
        (((((u8 (((((v0) &&& 0xf) <<< 4) ||| ((v1 >>> 56) &&& 0xf))))) &&& 0xf)) <<< 56) ||| ((((u8 (((v1 >>> 48) &&& 0xff))))) <<< 48) ||| ((((u8 (((v1 >>> 40) &&& 0xff))))) <<< 40) ||| ((((u8 (((v1 >>> 32) &&& 0xff))))) <<< 32) ||| ((((u8 (((v1 >>> 24) &&& 0xff))))) <<< 24) ||| ((((u8 (((v1 >>> 16) &&& 0xff))))) <<< 16) ||| ((((u8 (((v1 >>> 8) &&& 0xff))))) <<< 8) ||| (((u8 (((v1) &&& 0xff))))),
        ((((u8 (((v2 >>> 52) &&& 0xff))))) <<< 52) ||| ((((u8 (((v2 >>> 44) &&& 0xff))))) <<< 44) ||| ((((u8 (((v2 >>> 36) &&& 0xff))))) <<< 36) ||| ((((u8 (((v2 >>> 28) &&& 0xff))))) <<< 28) ||| ((((u8 (((v2 >>> 20) &&& 0xff))))) <<< 20) ||| ((((u8 (((v2 >>> 12) &&& 0xff))))) <<< 12) ||| ((((u8 (((v2 >>> 4) &&& 0xff))))) <<< 4) ||| ((((u8 (((((v2) &&& 0xf) <<< 4) ||| ((v3 >>> 56) &&& 0xf)))) >>> 4) &&& 0xf)),
        (((((u8 (((((v2) &&& 0xf) <<< 4) ||| ((v3 >>> 56) &&& 0xf))))) &&& 0xf)) <<< 56) ||| ((((u8 (((v3 >>> 48) &&& 0xff))))) <<< 48) ||| ((((u8 (((v3 >>> 40) &&& 0xff))))) <<< 40) ||| ((((u8 (((v3 >>> 32) &&& 0xff))))) <<< 32) ||| ((((u8 (((v3 >>> 24) &&& 0xff))))) <<< 24) ||| ((((u8 (((v3 >>> 16) &&& 0xff))))) <<< 16) ||| ((((u8 (((v3 >>> 8) &&& 0xff))))) <<< 8) ||| (((u8 (((v3) &&& 0xff))))),
        ((((u8 (((v4 >>> 52) &&& 0xff))))) <<< 52) ||| ((((u8 (((v4 >>> 44) &&& 0xff))))) <<< 44) ||| ((((u8 (((v4 >>> 36) &&& 0xff))))) <<< 36) ||| ((((u8 (((v4 >>> 28) &&& 0xff))))) <<< 28) ||| ((((u8 (((v4 >>> 20) &&& 0xff))))) <<< 20) ||| ((((u8 (((v4 >>> 12) &&& 0xff))))) <<< 12) ||| ((((u8 (((v4 >>> 4) &&& 0xff))))) <<< 4) ||| ((((u8 (((((v4) &&& 0xf) <<< 4) ||| ((v5 >>> 56) &&& 0xf)))) >>> 4) &&& 0xf)),
        (((((u8 (((((v4) &&& 0xf) <<< 4) ||| ((v5 >>> 56) &&& 0xf))))) &&& 0xf)) <<< 56) ||| ((((u8 (((v5 >>> 48) &&& 0xff))))) <<< 48) ||| ((((u8 (((v5 >>> 40) &&& 0xff))))) <<< 40) ||| ((((u8 (((v5 >>> 32) &&& 0xff))))) <<< 32) ||| ((((u8 (((v5 >>> 24) &&& 0xff))))) <<< 24) ||| ((((u8 (((v5 >>> 16) &&& 0xff))))) <<< 16) ||| ((((u8 (((v5 >>> 8) &&& 0xff))))) <<< 8) ||| (((u8 (((v5) &&& 0xff))))),
        ((((u8 (((v6 >>> 52) &&& 0xff))))) <<< 52) ||| ((((u8 (((v6 >>> 44) &&& 0xff))))) <<< 44) ||| ((((u8 (((v6 >>> 36) &&& 0xff))))) <<< 36) ||| ((((u8 (((v6 >>> 28) &&& 0xff))))) <<< 28) ||| ((((u8 (((v6 >>> 20) &&& 0xff))))) <<< 20) ||| ((((u8 (((v6 >>> 12) &&& 0xff))))) <<< 12) ||| ((((u8 (((v6 >>> 4) &&& 0xff))))) <<< 4) ||| ((((u8 (((((v6) &&& 0xf) <<< 4) ||| ((v7 >>> 56) &&& 0xf)))) >>> 4) &&& 0xf)),
        (((((u8 (((((v6) &&& 0xf) <<< 4) ||| ((v7 >>> 56) &&& 0xf))))) &&& 0xf)) <<< 56) ||| ((((u8 (((v7 >>> 48) &&& 0xff))))) <<< 48) ||| ((((u8 (((v7 >>> 40) &&& 0xff))))) <<< 40) ||| ((((u8 (((v7 >>> 32) &&& 0xff))))) <<< 32) ||| ((((u8 (((v7 >>> 24) &&& 0xff))))) <<< 24) ||| ((((u8 (((v7 >>> 16) &&& 0xff))))) <<< 16) ||| ((((u8 (((v7 >>> 8) &&& 0xff))))) <<< 8) ||| (((u8 (((v7) &&& 0xff))))) ] := rfl
  rw [key]
  rw [upb60_c0 v0 v1 h0,
    upb60_c1 v0 v1 h1,
    upb60_c2 v2 v3 h2,
    upb60_c3 v2 v3 h3,
    upb60_c4 v4 v5 h4,
    upb60_c5 v4 v5 h5,
    upb60_c6 v6 v7 h6,
    upb60_c7 v6 v7 h7]

theorem upb61_c0 (v0 v1 : Nat) (hv : v0 < 2 ^ 61) :
    ((((u8 (((v0 >>> 53) &&& 0xff))))) <<< 53) ||| ((((u8 (((v0 >>> 45) &&& 0xff))))) <<< 45) ||| ((((u8 (((v0 >>> 37) &&& 0xff))))) <<< 37) ||| ((((u8 (((v0 >>> 29) &&& 0xff))))) <<< 29) ||| ((((u8 (((v0 >>> 21) &&& 0xff))))) <<< 21) ||| ((((u8 (((v0 >>> 13) &&& 0xff))))) <<< 13) ||| ((((u8 (((v0 >>> 5) &&& 0xff))))) <<< 5) ||| ((((u8 (((((v0) &&& 0x1f) <<< 3) ||| ((v1 >>> 58) &&& 0x7)))) >>> 3) &&& 0x1f)) = v0 := by
  rw [step_top v0 61 53 rfl hv]
  rw [step_mid v0 53 45 rfl]
  rw [step_mid v0 45 37 rfl]
  rw [step_mid v0 37 29 rfl]
  rw [step_mid v0 29 21 rfl]
  rw [step_mid v0 21 13 rfl]
  rw [step_mid v0 13 5 rfl]
  rw [step_last v0 (((v1 >>> 58) &&& 0x7)) 3 5 31 rfl rfl
    (Nat.and_lt_two_pow _ (by norm_num))]

theorem upb61_c1 (v0 v1 v2 : Nat) (hv : v1 < 2 ^ 61) :
    (((((u8 (((((v0) &&& 0x1f) <<< 3) ||| ((v1 >>> 58) &&& 0x7))))) &&& 0x7)) <<< 58) ||| ((((u8 (((v1 >>> 50) &&& 0xff))))) <<< 50) ||| ((((u8 (((v1 >>> 42) &&& 0xff))))) <<< 42) ||| ((((u8 (((v1 >>> 34) &&& 0xff))))) <<< 34) ||| ((((u8 (((v1 >>> 26) &&& 0xff))))) <<< 26) ||| ((((u8 (((v1 >>> 18) &&& 0xff))))) <<< 18) ||| ((((u8 (((v1 >>> 10) &&& 0xff))))) <<< 10) ||| ((((u8 (((v1 >>> 2) &&& 0xff))))) <<< 2) ||| ((((u8 (((((v1) &&& 0x3) <<< 6) ||| ((v2 >>> 55) &&& 0x3f)))) >>> 6) &&& 0x3)) = v1 := by
  rw [step_first (((v0) &&& 0x1f)) v1 61 58 3 7 rfl rfl (by norm_num) hv]
  rw [step_mid v1 58 50 rfl]
  rw [step_mid v1 50 42 rfl]
  rw [step_mid v1 42 34 rfl]
  rw [step_mid v1 34 26 rfl]
  rw [step_mid v1 26 18 rfl]
  rw [step_mid v1 18 10 rfl]
  rw [step_mid v1 10 2 rfl]
  rw [step_last v1 (((v2 >>> 55) &&& 0x3f)) 6 2 3 rfl rfl
    (Nat.and_lt_two_pow _ (by norm_num))]

theorem upb61_c2 (v1 v2 v3 : Nat) (hv : v2 < 2 ^ 61) :
    (((((u8 (((((v1) &&& 0x3) <<< 6) ||| ((v2 >>> 55) &&& 0x3f))))) &&& 0x3f)) <<< 55) ||| ((((u8 (((v2 >>> 47) &&& 0xff))))) <<< 47) ||| ((((u8 (((v2 >>> 39) &&& 0xff))))) <<< 39) ||| ((((u8 (((v2 >>> 31) &&& 0xff))))) <<< 31) ||| ((((u8 (((v2 >>> 23) &&& 0xff))))) <<< 23) ||| ((((u8 (((v2 >>> 15) &&& 0xff))))) <<< 15) ||| ((((u8 (((v2 >>> 7) &&& 0xff))))) <<< 7) ||| ((((u8 (((((v2) &&& 0x7f) <<< 1) ||| ((v3 >>> 60) &&& 0x1)))) >>> 1) &&& 0x7f)) = v2 := by
  rw [step_first (((v1) &&& 0x3)) v2 61 55 6 63 rfl rfl (by norm_num) hv]
  rw [step_mid v2 55 47 rfl]
  rw [step_mid v2 47 39 rfl]
  rw [step_mid v2 39 31 rfl]
  rw [step_mid v2 31 23 rfl]
  rw [step_mid v2 23 15 rfl]
  rw [step_mid v2 15 7 rfl]
  rw [step_last v2 (((v3 >>> 60) &&& 0x1)) 1 7 127 rfl rfl
    (Nat.and_lt_two_pow _ (by norm_num))]

theorem upb61_c3 (v2 v3 v4 : Nat) (hv : v3 < 2 ^ 61) :
    (((((u8 (((((v2) &&& 0x7f) <<< 1) ||| ((v3 >>> 60) &&& 0x1))))) &&& 0x1)) <<< 60) ||| ((((u8 (((v3 >>> 52) &&& 0xff))))) <<< 52) ||| ((((u8 (((v3 >>> 44) &&& 0xff))))) <<< 44) ||| ((((u8 (((v3 >>> 36) &&& 0xff))))) <<< 36) ||| ((((u8 (((v3 >>> 28) &&& 0xff))))) <<< 28) ||| ((((u8 (((v3 >>> 20) &&& 0xff))))) <<< 20) ||| ((((u8 (((v3 >>> 12) &&& 0xff))))) <<< 12) ||| ((((u8 (((v3 >>> 4) &&& 0xff))))) <<< 4) ||| ((((u8 (((((v3) &&& 0xf) <<< 4) ||| ((v4 >>> 57) &&& 0xf)))) >>> 4) &&& 0xf)) = v3 := by
  rw [step_first (((v2) &&& 0x7f)) v3 61 60 1 1 rfl rfl (by norm_num) hv]
  rw [step_mid v3 60 52 rfl]
  rw [step_mid v3 52 44 rfl]
  rw [step_mid v3 44 36 rfl]
  rw [step_mid v3 36 28 rfl]
  rw [step_mid v3 28 20 rfl]
  rw [step_mid v3 20 12 rfl]
  rw [step_mid v3 12 4 rfl]
  rw [step_last v3 (((v4 >>> 57) &&& 0xf)) 4 4 15 rfl rfl
    (Nat.and_lt_two_pow _ (by norm_num))]

theorem upb61_c4 (v3 v4 v5 : Nat) (hv : v4 < 2 ^ 61) :
    (((((u8 (((((v3) &&& 0xf) <<< 4) ||| ((v4 >>> 57) &&& 0xf))))) &&& 0xf)) <<< 57) ||| ((((u8 (((v4 >>> 49) &&& 0xff))))) <<< 49) ||| ((((u8 (((v4 >>> 41) &&& 0xff))))) <<< 41) ||| ((((u8 (((v4 >>> 33) &&& 0xff))))) <<< 33) ||| ((((u8 (((v4 >>> 25) &&& 0xff))))) <<< 25) ||| ((((u8 (((v4 >>> 17) &&& 0xff))))) <<< 17) ||| ((((u8 (((v4 >>> 9) &&& 0xff))))) <<< 9) ||| ((((u8 (((v4 >>> 1) &&& 0xff))))) <<< 1) ||| ((((u8 (((((v4) &&& 0x1) <<< 7) ||| ((v5 >>> 54) &&& 0x7f)))) >>> 7) &&& 0x1)) = v4 := by
  rw [step_first (((v3) &&& 0xf)) v4 61 57 4 15 rfl rfl (by norm_num) hv]
  rw [step_mid v4 57 49 rfl]
  rw [step_mid v4 49 41 rfl]
  rw [step_mid v4 41 33 rfl]
  rw [step_mid v4 33 25 rfl]
  rw [step_mid v4 25 17 rfl]
  rw [step_mid v4 17 9 rfl]
  rw [step_mid v4 9 1 rfl]
  rw [step_last v4 (((v5 >>> 54) &&& 0x7f)) 7 1 1 rfl rfl
    (Nat.and_lt_two_pow _ (by norm_num))]

theorem upb61_c5 (v4 v5 v6 : Nat) (hv : v5 < 2 ^ 61) :
    (((((u8 (((((v4) &&& 0x1) <<< 7) ||| ((v5 >>> 54) &&& 0x7f))))) &&& 0x7f)) <<< 54) ||| ((((u8 (((v5 >>> 46) &&& 0xff))))) <<< 46) ||| ((((u8 (((v5 >>> 38) &&& 0xff))))) <<< 38) ||| ((((u8 (((v5 >>> 30) &&& 0xff))))) <<< 30) ||| ((((u8 (((v5 >>> 22) &&& 0xff))))) <<< 22) ||| ((((u8 (((v5 >>> 14) &&& 0xff))))) <<< 14) ||| ((((u8 (((v5 >>> 6) &&& 0xff))))) <<< 6) ||| ((((u8 (((((v5) &&& 0x3f) <<< 2) ||| ((v6 >>> 59) &&& 0x3)))) >>> 2) &&& 0x3f)) = v5 := by
  rw [step_first (((v4) &&& 0x1)) v5 61 54 7 127 rfl rfl (by norm_num) hv]
  rw [step_mid v5 54 46 rfl]
  rw [step_mid v5 46 38 rfl]
  rw [step_mid v5 38 30 rfl]
  rw [step_mid v5 30 22 rfl]
  rw [step_mid v5 22 14 rfl]
  rw [step_mid v5 14 6 rfl]
  rw [step_last v5 (((v6 >>> 59) &&& 0x3)) 2 6 63 rfl rfl
    (Nat.and_lt_two_pow _ (by norm_num))]

theorem upb61_c6 (v5 v6 v7 : Nat) (hv : v6 < 2 ^ 61) :
    (((((u8 (((((v5) &&& 0x3f) <<< 2) ||| ((v6 >>> 59) &&& 0x3))))) &&& 0x3)) <<< 59) ||| ((((u8 (((v6 >>> 51) &&& 0xff))))) <<< 51) ||| ((((u8 (((v6 >>> 43) &&& 0xff))))) <<< 43) ||| ((((u8 (((v6 >>> 35) &&& 0xff))))) <<< 35) ||| ((((u8 (((v6 >>> 27) &&& 0xff))))) <<< 27) ||| ((((u8 (((v6 >>> 19) &&& 0xff))))) <<< 19) ||| ((((u8 (((v6 >>> 11) &&& 0xff))))) <<< 11) ||| ((((u8 (((v6 >>> 3) &&& 0xff))))) <<< 3) ||| ((((u8 (((((v6) &&& 0x7) <<< 5) ||| ((v7 >>> 56) &&& 0x1f)))) >>> 5) &&& 0x7)) = v6 := by
  rw [step_first (((v5) &&& 0x3f)) v6 61 59 2 3 rfl rfl (by norm_num) hv]
  rw [step_mid v6 59 51 rfl]
  rw [step_mid v6 51 43 rfl]
  rw [step_mid v6 43 35 rfl]
  rw [step_mid v6 35 27 rfl]
  rw [step_mid v6 27 19 rfl]
  rw [step_mid v6 19 11 rfl]
  rw [step_mid v6 11 3 rfl]
  rw [step_last v6 (((v7 >>> 56) &&& 0x1f)) 5 3 7 rfl rfl
    (Nat.and_lt_two_pow _ (by norm_num))]

theorem upb61_c7 (v6 v7 : Nat) (hv : v7 < 2 ^ 61) :
    (((((u8 (((((v6) &&& 0x7) <<< 5) ||| ((v7 >>> 56) &&& 0x1f))))) &&& 0x1f)) <<< 56) ||| ((((u8 (((v7 >>> 48) &&& 0xff))))) <<< 48) ||| ((((u8 (((v7 >>> 40) &&& 0xff))))) <<< 40) ||| ((((u8 (((v7 >>> 32) &&& 0xff))))) <<< 32) ||| ((((u8 (((v7 >>> 24) &&& 0xff))))) <<< 24) ||| ((((u8 (((v7 >>> 16) &&& 0xff))))) <<< 16) ||| ((((u8 (((v7 >>> 8) &&& 0xff))))) <<< 8) ||| (((u8 (((v7) &&& 0xff))))) = v7 := by
  rw [step_first (((v6) &&& 0x7)) v7 61 56 5 31 rfl rfl (by norm_num) hv]
  rw [step_mid v7 56 48 rfl]
  rw [step_mid v7 48 40 rfl]
  rw [step_mid v7 40 32 rfl]
  rw [step_mid v7 32 24 rfl]
  rw [step_mid v7 24 16 rfl]
  rw [step_mid v7 16 8 rfl]
  rw [step_low v7]

theorem unpack_pack_bits_61 (v0 v1 v2 v3 v4 v5 v6 v7 : Nat)
    (h0 : v0 < 2 ^ 61) (h1 : v1 < 2 ^ 61) (h2 : v2 < 2 ^ 61) (h3 : v3 < 2 ^ 61) (h4 : v4 < 2 ^ 61) (h5 : v5 < 2 ^ 61) (h6 : v6 < 2 ^ 61) (h7 : v7 < 2 ^ 61) :
    unpack_bits_61 (pack_bits_61 v0 v1 v2 v3 v4 v5 v6 v7) =
      [v0, v1, v2, v3, v4, v5, v6, v7] := by
  have key : unpack_bits_61 (pack_bits_61 v0 v1 v2 v3 v4 v5 v6 v7) =
      [ ((((u8 (((v0 >>> 53) &&& 0xff))))) <<< 53) ||| ((((u8 (((v0 >>> 45) &&& 0xff))))) <<< 45) ||| ((((u8 (((v0 >>> 37) &&& 0xff))))) <<< 37) ||| ((((u8 (((v0 >>> 29) &&& 0xff))))) <<< 29) ||| ((((u8 (((v0 >>> 21) &&& 0xff))))) <<< 21) ||| ((((u8 (((v0 >>> 13) &&& 0xff))))) <<< 13) ||| ((((u8 (((v0 >>> 5) &&& 0xff))))) <<< 5) ||| ((((u8 (((((v0) &&& 0x1f) <<< 3) ||| ((v1 >>> 58) &&& 0x7)))) >>> 3) &&& 0x1f)),
        (((((u8 (((((v0) &&& 0x1f) <<< 3) ||| ((v1 >>> 58) &&& 0x7))))) &&& 0x7)) <<< 58) ||| ((((u8 (((v1 >>> 50) &&& 0xff))))) <<< 50) ||| ((((u8 (((v1 >>> 42) &&& 0xff))))) <<< 42) ||| ((((u8 (((v1 >>> 34) &&& 0xff))))) <<< 34) ||| ((((u8 (((v1 >>> 26) &&& 0xff))))) <<< 26) ||| ((((u8 (((v1 >>> 18) &&& 0xff))))) <<< 18) ||| ((((u8 (((v1 >>> 10) &&& 0xff))))) <<< 10) ||| ((((u8 (((v1 >>> 2) &&& 0xff))))) <<< 2) ||| ((((u8 (((((v1) &&& 0x3) <<< 6) ||| ((v2 >>> 55) &&& 0x3f)))) >>> 6) &&& 0x3)),
        (((((u8 (((((v1) &&& 0x3) <<< 6) ||| ((v2 >>> 55) &&& 0x3f))))) &&& 0x3f)) <<< 55) ||| ((((u8 (((v2 >>> 47) &&& 0xff))))) <<< 47) ||| ((((u8 (((v2 >>> 39) &&& 0xff))))) <<< 39) ||| ((((u8 (((v2 >>> 31) &&& 0xff))))) <<< 31) ||| ((((u8 (((v2 >>> 23) &&& 0xff))))) <<< 23) ||| ((((u8 (((v2 >>> 15) &&& 0xff))))) <<< 15) ||| ((((u8 (((v2 >>> 7) &&& 0xff))))) <<< 7) ||| ((((u8 (((((v2) &&& 0x7f) <<< 1) ||| ((v3 >>> 60) &&& 0x1)))) >>> 1) &&& 0x7f)),
        (((((u8 (((((v2) &&& 0x7f) <<< 1) ||| ((v3 >>> 60) &&& 0x1))))) &&& 0x1)) <<< 60) ||| ((((u8 (((v3 >>> 52) &&& 0xff))))) <<< 52) ||| ((((u8 (((v3 >>> 44) &&& 0xff))))) <<< 44) ||| ((((u8 (((v3 >>> 36) &&& 0xff))))) <<< 36) ||| ((((u8 (((v3 >>> 28) &&& 0xff))))) <<< 28) ||| ((((u8 (((v3 >>> 20) &&& 0xff))))) <<< 20) ||| ((((u8 (((v3 >>> 12) &&& 0xff))))) <<< 12) ||| ((((u8 (((v3 >>> 4) &&& 0xff))))) <<< 4) ||| ((((u8 (((((v3) &&& 0xf) <<< 4) ||| ((v4 >>> 57) &&& 0xf)))) >>> 4) &&& 0xf)),
        (((((u8 (((((v3) &&& 0xf) <<< 4) ||| ((v4 >>> 57) &&& 0xf))))) &&& 0xf)) <<< 57) ||| ((((u8 (((v4 >>> 49) &&& 0xff))))) <<< 49) ||| ((((u8 (((v4 >>> 41) &&& 0xff))))) <<< 41) ||| ((((u8 (((v4 >>> 33) &&& 0xff))))) <<< 33) ||| ((((u8 (((v4 >>> 25) &&& 0xff))))) <<< 25) ||| ((((u8 (((v4 >>> 17) &&& 0xff))))) <<< 17) ||| ((((u8 (((v4 >>> 9) &&& 0xff))))) <<< 9) ||| ((((u8 (((v4 >>> 1) &&& 0xff))))) <<< 1) ||| ((((u8 (((((v4) &&& 0x1) <<< 7) ||| ((v5 >>> 54) &&& 0x7f)))) >>> 7) &&& 0x1)),
        (((((u8 (((((v4) &&& 0x1) <<< 7) ||| ((v5 >>> 54) &&& 0x7f))))) &&& 0x7f)) <<< 54) ||| ((((u8 (((v5 >>> 46) &&& 0xff))))) <<< 46) ||| ((((u8 (((v5 >>> 38) &&& 0xff))))) <<< 38) ||| ((((u8 (((v5 >>> 30) &&& 0xff))))) <<< 30) ||| ((((u8 (((v5 >>> 22) &&& 0xff))))) <<< 22) ||| ((((u8 (((v5 >>> 14) &&& 0xff))))) <<< 14) ||| ((((u8 (((v5 >>> 6) &&& 0xff))))) <<< 6) ||| ((((u8 (((((v5) &&& 0x3f) <<< 2) ||| ((v6 >>> 59) &&& 0x3)))) >>> 2) &&& 0x3f)),
        (((((u8 (((((v5) &&& 0x3f) <<< 2) ||| ((v6 >>> 59) &&& 0x3))))) &&& 0x3)) <<< 59) ||| ((((u8 (((v6 >>> 51) &&& 0xff))))) <<< 51) ||| ((((u8 (((v6 >>> 43) &&& 0xff))))) <<< 43) ||| ((((u8 (((v6 >>> 35) &&& 0xff))))) <<< 35) ||| ((((u8 (((v6 >>> 27) &&& 0xff))))) <<< 27) ||| ((((u8 (((v6 >>> 19) &&& 0xff))))) <<< 19) ||| ((((u8 (((v6 >>> 11) &&& 0xff))))) <<< 11) ||| ((((u8 (((v6 >>> 3) &&& 0xff))))) <<< 3) ||| ((((u8 (((((v6) &&& 0x7) <<< 5) ||| ((v7 >>> 56) &&& 0x1f)))) >>> 5) &&& 0x7)),
        (((((u8 (((((v6) &&& 0x7) <<< 5) ||| ((v7 >>> 56) &&& 0x1f))))) &&& 0x1f)) <<< 56) ||| ((((u8 (((v7 >>> 48) &&& 0xff))))) <<< 48) ||| ((((u8 (((v7 >>> 40) &&& 0xff))))) <<< 40) ||| ((((u8 (((v7 >>> 32) &&& 0xff))))) <<< 32) ||| ((((u8 (((v7 >>> 24) &&& 0xff))))) <<< 24) ||| ((((u8 (((v7 >>> 16) &&& 0xff))))) <<< 16) ||| ((((u8 (((v7 >>> 8) &&& 0xff))))) <<< 8) ||| (((u8 (((v7) &&& 0xff))))) ] := rfl
  rw [key]
  rw [upb61_c0 v0 v1 h0,
    upb61_c1 v0 v1 v2 h1,
    upb61_c2 v1 v2 v3 h2,
    upb61_c3 v2 v3 v4 h3,
    upb61_c4 v3 v4 v5 h4,
    upb61_c5 v4 v5 v6 h5,
    upb61_c6 v5 v6 v7 h6,
    upb61_c7 v6 v7 h7]

theorem upb62_c0 (v0 v1 : Nat) (hv : v0 < 2 ^ 62) :
    ((((u8 (((v0 >>> 54) &&& 0xff))))) <<< 54) ||| ((((u8 (((v0 >>> 46) &&& 0xff))))) <<< 46) ||| ((((u8 (((v0 >>> 38) &&& 0xff))))) <<< 38) ||| ((((u8 (((v0 >>> 30) &&& 0xff))))) <<< 30) ||| ((((u8 (((v0 >>> 22) &&& 0xff))))) <<< 22) ||| ((((u8 (((v0 >>> 14) &&& 0xff))))) <<< 14) ||| ((((u8 (((v0 >>> 6) &&& 0xff))))) <<< 6) ||| ((((u8 (((((v0) &&& 0x3f) <<< 2) ||| ((v1 >>> 60) &&& 0x3)))) >>> 2) &&& 0x3f)) = v0 := by
  rw [step_top v0 62 54 rfl hv]
  rw [step_mid v0 54 46 rfl]
  rw [step_mid v0 46 38 rfl]
  rw [step_mid v0 38 30 rfl]
  rw [step_mid v0 30 22 rfl]
  rw [step_mid v0 22 14 rfl]
  rw [step_mid v0 14 6 rfl]
  rw [step_last v0 (((v1 >>> 60) &&& 0x3)) 2 6 63 rfl rfl
    (Nat.and_lt_two_pow _ (by norm_num))]

theorem upb62_c1 (v0 v1 v2 : Nat) (hv : v1 < 2 ^ 62) :
    (((((u8 (((((v0) &&& 0x3f) <<< 2) ||| ((v1 >>> 60) &&& 0x3))))) &&& 0x3)) <<< 60) ||| ((((u8 (((v1 >>> 52) &&& 0xff))))) <<< 52) ||| ((((u8 (((v1 >>> 44) &&& 0xff))))) <<< 44) ||| ((((u8 (((v1 >>> 36) &&& 0xff))))) <<< 36) ||| ((((u8 (((v1 >>> 28) &&& 0xff))))) <<< 28) ||| ((((u8 (((v1 >>> 20) &&& 0xff))))) <<< 20) ||| ((((u8 (((v1 >>> 12) &&& 0xff))))) <<< 12) ||| ((((u8 (((v1 >>> 4) &&& 0xff))))) <<< 4) ||| ((((u8 (((((v1) &&& 0xf) <<< 4) ||| ((v2 >>> 58) &&& 0xf)))) >>> 4) &&& 0xf)) = v1 := by
  rw [step_first (((v0) &&& 0x3f)) v1 62 60 2 3 rfl rfl (by norm_num) hv]
  rw [step_mid v1 60 52 rfl]
  rw [step_mid v1 52 44 rfl]
  rw [step_mid v1 44 36 rfl]
  rw [step_mid v1 36 28 rfl]
  rw [step_mid v1 28 20 rfl]
  rw [step_mid v1 20 12 rfl]
  rw [step_mid v1 12 4 rfl]
  rw [step_last v1 (((v2 >>> 58) &&& 0xf)) 4 4 15 rfl rfl
    (Nat.and_lt_two_pow _ (by norm_num))]

theorem upb62_c2 (v1 v2 v3 : Nat) (hv : v2 < 2 ^ 62) :
    (((((u8 (((((v1) &&& 0xf) <<< 4) ||| ((v2 >>> 58) &&& 0xf))))) &&& 0xf)) <<< 58) ||| ((((u8 (((v2 >>> 50) &&& 0xff))))) <<< 50) ||| ((((u8 (((v2 >>> 42) &&& 0xff))))) <<< 42) ||| ((((u8 (((v2 >>> 34) &&& 0xff))))) <<< 34) ||| ((((u8 (((v2 >>> 26) &&& 0xff))))) <<< 26) ||| ((((u8 (((v2 >>> 18) &&& 0xff))))) <<< 18) ||| ((((u8 (((v2 >>> 10) &&& 0xff))))) <<< 10) ||| ((((u8 (((v2 >>> 2) &&& 0xff))))) <<< 2) ||| ((((u8 (((((v2) &&& 0x3) <<< 6) ||| ((v3 >>> 56) &&& 0x3f)))) >>> 6) &&& 0x3)) = v2 := by
  rw [step_first (((v1) &&& 0xf)) v2 62 58 4 15 rfl rfl (by norm_num) hv]
  rw [step_mid v2 58 50 rfl]
  rw [step_mid v2 50 42 rfl]
  rw [step_mid v2 42 34 rfl]
  rw [step_mid v2 34 26 rfl]
  rw [step_mid v2 26 18 rfl]
  rw [step_mid v2 18 10 rfl]
  rw [step_mid v2 10 2 rfl]
  rw [step_last v2 (((v3 >>> 56) &&& 0x3f)) 6 2 3 rfl rfl
    (Nat.and_lt_two_pow _ (by norm_num))]

theorem upb62_c3 (v2 v3 : Nat) (hv : v3 < 2 ^ 62) :
    (((((u8 (((((v2) &&& 0x3) <<< 6) ||| ((v3 >>> 56) &&& 0x3f))))) &&& 0x3f)) <<< 56) ||| ((((u8 (((v3 >>> 48) &&& 0xff))))) <<< 48) ||| ((((u8 (((v3 >>> 40) &&& 0xff))))) <<< 40) ||| ((((u8 (((v3 >>> 32) &&& 0xff))))) <<< 32) ||| ((((u8 (((v3 >>> 24) &&& 0xff))))) <<< 24) ||| ((((u8 (((v3 >>> 16) &&& 0xff))))) <<< 16) ||| ((((u8 (((v3 >>> 8) &&& 0xff))))) <<< 8) ||| (((u8 (((v3) &&& 0xff))))) = v3 := by
  rw [step_first (((v2) &&& 0x3)) v3 62 56 6 63 rfl rfl (by norm_num) hv]
  rw [step_mid v3 56 48 rfl]
  rw [step_mid v3 48 40 rfl]
  rw [step_mid v3 40 32 rfl]
  rw [step_mid v3 32 24 rfl]
  rw [step_mid v3 24 16 rfl]
  rw [step_mid v3 16 8 rfl]
  rw [step_low v3]

theorem upb62_c4 (v4 v5 : Nat) (hv : v4 < 2 ^ 62) :
    ((((u8 (((v4 >>> 54) &&& 0xff))))) <<< 54) ||| ((((u8 (((v4 >>> 46) &&& 0xff))))) <<< 46) ||| ((((u8 (((v4 >>> 38) &&& 0xff))))) <<< 38) ||| ((((u8 (((v4 >>> 30) &&& 0xff))))) <<< 30) ||| ((((u8 (((v4 >>> 22) &&& 0xff))))) <<< 22) ||| ((((u8 (((v4 >>> 14) &&& 0xff))))) <<< 14) ||| ((((u8 (((v4 >>> 6) &&& 0xff))))) <<< 6) ||| ((((u8 (((((v4) &&& 0x3f) <<< 2) ||| ((v5 >>> 60) &&& 0x3)))) >>> 2) &&& 0x3f)) = v4 := by
  rw [step_top v4 62 54 rfl hv]
  rw [step_mid v4 54 46 rfl]
  rw [step_mid v4 46 38 rfl]
  rw [step_mid v4 38 30 rfl]
  rw [step_mid v4 30 22 rfl]
  rw [step_mid v4 22 14 rfl]
  rw [step_mid v4 14 6 rfl]
  rw [step_last v4 (((v5 >>> 60) &&& 0x3)) 2 6 63 rfl rfl
    (Nat.and_lt_two_pow _ (by norm_num))]

theorem upb62_c5 (v4 v5 v6 : Nat) (hv : v5 < 2 ^ 62) :
    (((((u8 (((((v4) &&& 0x3f) <<< 2) ||| ((v5 >>> 60) &&& 0x3))))) &&& 0x3)) <<< 60) ||| ((((u8 (((v5 >>> 52) &&& 0xff))))) <<< 52) ||| ((((u8 (((v5 >>> 44) &&& 0xff))))) <<< 44) ||| ((((u8 (((v5 >>> 36) &&& 0xff))))) <<< 36) ||| ((((u8 (((v5 >>> 28) &&& 0xff))))) <<< 28) ||| ((((u8 (((v5 >>> 20) &&& 0xff))))) <<< 20) ||| ((((u8 (((v5 >>> 12) &&& 0xff))))) <<< 12) ||| ((((u8 (((v5 >>> 4) &&& 0xff))))) <<< 4) ||| ((((u8 (((((v5) &&& 0xf) <<< 4) ||| ((v6 >>> 58) &&& 0xf)))) >>> 4) &&& 0xf)) = v5 := by
  rw [step_first (((v4) &&& 0x3f)) v5 62 60 2 3 rfl rfl (by norm_num) hv]
  rw [step_mid v5 60 52 rfl]
  rw [step_mid v5 52 44 rfl]
  rw [step_mid v5 44 36 rfl]
  rw [step_mid v5 36 28 rfl]
  rw [step_mid v5 28 20 rfl]
  rw [step_mid v5 20 12 rfl]
  rw [step_mid v5 12 4 rfl]
  rw [step_last v5 (((v6 >>> 58) &&& 0xf)) 4 4 15 rfl rfl
    (Nat.and_lt_two_pow _ (by norm_num))]

theorem upb62_c6 (v5 v6 v7 : Nat) (hv : v6 < 2 ^ 62) :
    (((((u8 (((((v5) &&& 0xf) <<< 4) ||| ((v6 >>> 58) &&& 0xf))))) &&& 0xf)) <<< 58) ||| ((((u8 (((v6 >>> 50) &&& 0xff))))) <<< 50) ||| ((((u8 (((v6 >>> 42) &&& 0xff))))) <<< 42) ||| ((((u8 (((v6 >>> 34) &&& 0xff))))) <<< 34) ||| ((((u8 (((v6 >>> 26) &&& 0xff))))) <<< 26) ||| ((((u8 (((v6 >>> 18) &&& 0xff))))) <<< 18) ||| ((((u8 (((v6 >>> 10) &&& 0xff))))) <<< 10) ||| ((((u8 (((v6 >>> 2) &&& 0xff))))) <<< 2) ||| ((((u8 (((((v6) &&& 0x3) <<< 6) ||| ((v7 >>> 56) &&& 0x3f)))) >>> 6) &&& 0x3)) = v6 := by
  rw [step_first (((v5) &&& 0xf)) v6 62 58 4 15 rfl rfl (by norm_num) hv]
  rw [step_mid v6 58 50 rfl]
  rw [step_mid v6 50 42 rfl]
  rw [step_mid v6 42 34 rfl]
  rw [step_mid v6 34 26 rfl]
  rw [step_mid v6 26 18 rfl]
  rw [step_mid v6 18 10 rfl]
  rw [step_mid v6 10 2 rfl]
  rw [step_last v6 (((v7 >>> 56) &&& 0x3f)) 6 2 3 rfl rfl
    (Nat.and_lt_two_pow _ (by norm_num))]

theorem upb62_c7 (v6 v7 : Nat) (hv : v7 < 2 ^ 62) :
    (((((u8 (((((v6) &&& 0x3) <<< 6) ||| ((v7 >>> 56) &&& 0x3f))))) &&& 0x3f)) <<< 56) ||| ((((u8 (((v7 >>> 48) &&& 0xff))))) <<< 48) ||| ((((u8 (((v7 >>> 40) &&& 0xff))))) <<< 40) ||| ((((u8 (((v7 >>> 32) &&& 0xff))))) <<< 32) ||| ((((u8 (((v7 >>> 24) &&& 0xff))))) <<< 24) ||| ((((u8 (((v7 >>> 16) &&& 0xff))))) <<< 16) ||| ((((u8 (((v7 >>> 8) &&& 0xff))))) <<< 8) ||| (((u8 (((v7) &&& 0xff))))) = v7 := by
  rw [step_first (((v6) &&& 0x3)) v7 62 56 6 63 rfl rfl (by norm_num) hv]
  rw [step_mid v7 56 48 rfl]
  rw [step_mid v7 48 40 rfl]
  rw [step_mid v7 40 32 rfl]
  rw [step_mid v7 32 24 rfl]
  rw [step_mid v7 24 16 rfl]
  rw [step_mid v7 16 8 rfl]
  rw [step_low v7]

theorem unpack_pack_bits_62 (v0 v1 v2 v3 v4 v5 v6 v7 : Nat)
    (h0 : v0 < 2 ^ 62) (h1 : v1 < 2 ^ 62) (h2 : v2 < 2 ^ 62) (h3 : v3 < 2 ^ 62) (h4 : v4 < 2 ^ 62) (h5 : v5 < 2 ^ 62) (h6 : v6 < 2 ^ 62) (h7 : v7 < 2 ^ 62) :
    unpack_bits_62 (pack_bits_62 v0 v1 v2 v3 v4 v5 v6 v7) =
      [v0, v1, v2, v3, v4, v5, v6, v7] := by
  have key : unpack_bits_62 (pack_bits_62 v0 v1 v2 v3 v4 v5 v6 v7) =
      [ ((((u8 (((v0 >>> 54) &&& 0xff))))) <<< 54) ||| ((((u8 (((v0 >>> 46) &&& 0xff))))) <<< 46) ||| ((((u8 (((v0 >>> 38) &&& 0xff))))) <<< 38) ||| ((((u8 (((v0 >>> 30) &&& 0xff))))) <<< 30) ||| ((((u8 (((v0 >>> 22) &&& 0xff))))) <<< 22) ||| ((((u8 (((v0 >>> 14) &&& 0xff))))) <<< 14) ||| ((((u8 (((v0 >>> 6) &&& 0xff))))) <<< 6) ||| ((((u8 (((((v0) &&& 0x3f) <<< 2) ||| ((v1 >>> 60) &&& 0x3)))) >>> 2) &&& 0x3f)),
        (((((u8 (((((v0) &&& 0x3f) <<< 2) ||| ((v1 >>> 60) &&& 0x3))))) &&& 0x3)) <<< 60) ||| ((((u8 (((v1 >>> 52) &&& 0xff))))) <<< 52) ||| ((((u8 (((v1 >>> 44) &&& 0xff))))) <<< 44) ||| ((((u8 (((v1 >>> 36) &&& 0xff))))) <<< 36) ||| ((((u8 (((v1 >>> 28) &&& 0xff))))) <<< 28) ||| ((((u8 (((v1 >>> 20) &&& 0xff))))) <<< 20) ||| ((((u8 (((v1 >>> 12) &&& 0xff))))) <<< 12) ||| ((((u8 (((v1 >>> 4) &&& 0xff))))) <<< 4) ||| ((((u8 (((((v1) &&& 0xf) <<< 4) ||| ((v2 >>> 58) &&& 0xf)))) >>> 4) &&& 0xf)),
        (((((u8 (((((v1) &&& 0xf) <<< 4) ||| ((v2 >>> 58) &&& 0xf))))) &&& 0xf)) <<< 58) ||| ((((u8 (((v2 >>> 50) &&& 0xff))))) <<< 50) ||| ((((u8 (((v2 >>> 42) &&& 0xff))))) <<< 42) ||| ((((u8 (((v2 >>> 34) &&& 0xff))))) <<< 34) ||| ((((u8 (((v2 >>> 26) &&& 0xff))))) <<< 26) ||| ((((u8 (((v2 >>> 18) &&& 0xff))))) <<< 18) ||| ((((u8 (((v2 >>> 10) &&& 0xff))))) <<< 10) ||| ((((u8 (((v2 >>> 2) &&& 0xff))))) <<< 2) ||| ((((u8 (((((v2) &&& 0x3) <<< 6) ||| ((v3 >>> 56) &&& 0x3f)))) >>> 6) &&& 0x3)),
        (((((u8 (((((v2) &&& 0x3) <<< 6) ||| ((v3 >>> 56) &&& 0x3f))))) &&& 0x3f)) <<< 56) ||| ((((u8 (((v3 >>> 48) &&& 0xff))))) <<< 48) ||| ((((u8 (((v3 >>> 40) &&& 0xff))))) <<< 40) ||| ((((u8 (((v3 >>> 32) &&& 0xff))))) <<< 32) ||| ((((u8 (((v3 >>> 24) &&& 0xff))))) <<< 24) ||| ((((u8 (((v3 >>> 16) &&& 0xff))))) <<< 16) ||| ((((u8 (((v3 >>> 8) &&& 0xff))))) <<< 8) ||| (((u8 (((v3) &&& 0xff))))),
        ((((u8 (((v4 >>> 54) &&& 0xff))))) <<< 54) ||| ((((u8 (((v4 >>> 46) &&& 0xff))))) <<< 46) ||| ((((u8 (((v4 >>> 38) &&& 0xff))))) <<< 38) ||| ((((u8 (((v4 >>> 30) &&& 0xff))))) <<< 30) ||| ((((u8 (((v4 >>> 22) &&& 0xff))))) <<< 22) ||| ((((u8 (((v4 >>> 14) &&& 0xff))))) <<< 14) ||| ((((u8 (((v4 >>> 6) &&& 0xff))))) <<< 6) ||| ((((u8 (((((v4) &&& 0x3f) <<< 2) ||| ((v5 >>> 60) &&& 0x3)))) >>> 2) &&& 0x3f)),
        (((((u8 (((((v4) &&& 0x3f) <<< 2) ||| ((v5 >>> 60) &&& 0x3))))) &&& 0x3)) <<< 60) ||| ((((u8 (((v5 >>> 52) &&& 0xff))))) <<< 52) ||| ((((u8 (((v5 >>> 44) &&& 0xff))))) <<< 44) ||| ((((u8 (((v5 >>> 36) &&& 0xff))))) <<< 36) ||| ((((u8 (((v5 >>> 28) &&& 0xff))))) <<< 28) ||| ((((u8 (((v5 >>> 20) &&& 0xff))))) <<< 20) ||| ((((u8 (((v5 >>> 12) &&& 0xff))))) <<< 12) ||| ((((u8 (((v5 >>> 4) &&& 0xff))))) <<< 4) ||| ((((u8 (((((v5) &&& 0xf) <<< 4) ||| ((v6 >>> 58) &&& 0xf)))) >>> 4) &&& 0xf)),
        (((((u8 (((((v5) &&& 0xf) <<< 4) ||| ((v6 >>> 58) &&& 0xf))))) &&& 0xf)) <<< 58) ||| ((((u8 (((v6 >>> 50) &&& 0xff))))) <<< 50) ||| ((((u8 (((v6 >>> 42) &&& 0xff))))) <<< 42) ||| ((((u8 (((v6 >>> 34) &&& 0xff))))) <<< 34) ||| ((((u8 (((v6 >>> 26) &&& 0xff))))) <<< 26) ||| ((((u8 (((v6 >>> 18) &&& 0xff))))) <<< 18) ||| ((((u8 (((v6 >>> 10) &&& 0xff))))) <<< 10) ||| ((((u8 (((v6 >>> 2) &&& 0xff))))) <<< 2) ||| ((((u8 (((((v6) &&& 0x3) <<< 6) ||| ((v7 >>> 56) &&& 0x3f)))) >>> 6) &&& 0x3)),
        (((((u8 (((((v6) &&& 0x3) <<< 6) ||| ((v7 >>> 56) &&& 0x3f))))) &&& 0x3f)) <<< 56) ||| ((((u8 (((v7 >>> 48) &&& 0xff))))) <<< 48) ||| ((((u8 (((v7 >>> 40) &&& 0xff))))) <<< 40) ||| ((((u8 (((v7 >>> 32) &&& 0xff))))) <<< 32) ||| ((((u8 (((v7 >>> 24) &&& 0xff))))) <<< 24) ||| ((((u8 (((v7 >>> 16) &&& 0xff))))) <<< 16) ||| ((((u8 (((v7 >>> 8) &&& 0xff))))) <<< 8) ||| (((u8 (((v7) &&& 0xff))))) ] := rfl
  rw [key]
  rw [upb62_c0 v0 v1 h0,
    upb62_c1 v0 v1 v2 h1,
    upb62_c2 v1 v2 v3 h2,
    upb62_c3 v2 v3 h3,
    upb62_c4 v4 v5 h4,
    upb62_c5 v4 v5 v6 h5,
    upb62_c6 v5 v6 v7 h6,
    upb62_c7 v6 v7 h7]

theorem upb63_c0 (v0 v1 : Nat) (hv : v0 < 2 ^ 63) :
    ((((u8 (((v0 >>> 55) &&& 0xff))))) <<< 55) ||| ((((u8 (((v0 >>> 47) &&& 0xff))))) <<< 47) ||| ((((u8 (((v0 >>> 39) &&& 0xff))))) <<< 39) ||| ((((u8 (((v0 >>> 31) &&& 0xff))))) <<< 31) ||| ((((u8 (((v0 >>> 23) &&& 0xff))))) <<< 23) ||| ((((u8 (((v0 >>> 15) &&& 0xff))))) <<< 15) ||| ((((u8 (((v0 >>> 7) &&& 0xff))))) <<< 7) ||| ((((u8 (((((v0) &&& 0x7f) <<< 1) ||| ((v1 >>> 62) &&& 0x1)))) >>> 1) &&& 0x7f)) = v0 := by
  rw [step_top v0 63 55 rfl hv]
  rw [step_mid v0 55 47 rfl]
  rw [step_mid v0 47 39 rfl]
  rw [step_mid v0 39 31 rfl]
  rw [step_mid v0 31 23 rfl]
  rw [step_mid v0 23 15 rfl]
  rw [step_mid v0 15 7 rfl]
  rw [step_last v0 (((v1 >>> 62) &&& 0x1)) 1 7 127 rfl rfl
    (Nat.and_lt_two_pow _ (by norm_num))]

theorem upb63_c1 (v0 v1 v2 : Nat) (hv : v1 < 2 ^ 63) :
    (((((u8 (((((v0) &&& 0x7f) <<< 1) ||| ((v1 >>> 62) &&& 0x1))))) &&& 0x1)) <<< 62) ||| ((((u8 (((v1 >>> 54) &&& 0xff))))) <<< 54) ||| ((((u8 (((v1 >>> 46) &&& 0xff))))) <<< 46) ||| ((((u8 (((v1 >>> 38) &&& 0xff))))) <<< 38) ||| ((((u8 (((v1 >>> 30) &&& 0xff))))) <<< 30) ||| ((((u8 (((v1 >>> 22) &&& 0xff))))) <<< 22) ||| ((((u8 (((v1 >>> 14) &&& 0xff))))) <<< 14) ||| ((((u8 (((v1 >>> 6) &&& 0xff))))) <<< 6) ||| ((((u8 (((((v1) &&& 0x3f) <<< 2) ||| ((v2 >>> 61) &&& 0x3)))) >>> 2) &&& 0x3f)) = v1 := by
  rw [step_first (((v0) &&& 0x7f)) v1 63 62 1 1 rfl rfl (by norm_num) hv]
  rw [step_mid v1 62 54 rfl]
  rw [step_mid v1 54 46 rfl]
  rw [step_mid v1 46 38 rfl]
  rw [step_mid v1 38 30 rfl]
  rw [step_mid v1 30 22 rfl]
  rw [step_mid v1 22 14 rfl]
  rw [step_mid v1 14 6 rfl]
  rw [step_last v1 (((v2 >>> 61) &&& 0x3)) 2 6 63 rfl rfl
    (Nat.and_lt_two_pow _ (by norm_num))]

theorem upb63_c2 (v1 v2 v3 : Nat) (hv : v2 < 2 ^ 63) :
    (((((u8 (((((v1) &&& 0x3f) <<< 2) ||| ((v2 >>> 61) &&& 0x3))))) &&& 0x3)) <<< 61) ||| ((((u8 (((v2 >>> 53) &&& 0xff))))) <<< 53) ||| ((((u8 (((v2 >>> 45) &&& 0xff))))) <<< 45) ||| ((((u8 (((v2 >>> 37) &&& 0xff))))) <<< 37) ||| ((((u8 (((v2 >>> 29) &&& 0xff))))) <<< 29) ||| ((((u8 (((v2 >>> 21) &&& 0xff))))) <<< 21) ||| ((((u8 (((v2 >>> 13) &&& 0xff))))) <<< 13) ||| ((((u8 (((v2 >>> 5) &&& 0xff))))) <<< 5) ||| ((((u8 (((((v2) &&& 0x1f) <<< 3) ||| ((v3 >>> 60) &&& 0x7)))) >>> 3) &&& 0x1f)) = v2 := by
  rw [step_first (((v1) &&& 0x3f)) v2 63 61 2 3 rfl rfl (by norm_num) hv]
  rw [step_mid v2 61 53 rfl]
  rw [step_mid v2 53 45 rfl]
  rw [step_mid v2 45 37 rfl]
  rw [step_mid v2 37 29 rfl]
  rw [step_mid v2 29 21 rfl]
  rw [step_mid v2 21 13 rfl]
  rw [step_mid v2 13 5 rfl]
  rw [step_last v2 (((v3 >>> 60) &&& 0x7)) 3 5 31 rfl rfl
    (Nat.and_lt_two_pow _ (by norm_num))]

theorem upb63_c3 (v2 v3 v4 : Nat) (hv : v3 < 2 ^ 63) :
    (((((u8 (((((v2) &&& 0x1f) <<< 3) ||| ((v3 >>> 60) &&& 0x7))))) &&& 0x7)) <<< 60) ||| ((((u8 (((v3 >>> 52) &&& 0xff))))) <<< 52) ||| ((((u8 (((v3 >>> 44) &&& 0xff))))) <<< 44) ||| ((((u8 (((v3 >>> 36) &&& 0xff))))) <<< 36) ||| ((((u8 (((v3 >>> 28) &&& 0xff))))) <<< 28) ||| ((((u8 (((v3 >>> 20) &&& 0xff))))) <<< 20) ||| ((((u8 (((v3 >>> 12) &&& 0xff))))) <<< 12) ||| ((((u8 (((v3 >>> 4) &&& 0xff))))) <<< 4) ||| ((((u8 (((((v3) &&& 0xf) <<< 4) ||| ((v4 >>> 59) &&& 0xf)))) >>> 4) &&& 0xf)) = v3 := by
  rw [step_first (((v2) &&& 0x1f)) v3 63 60 3 7 rfl rfl (by norm_num) hv]
  rw [step_mid v3 60 52 rfl]
  rw [step_mid v3 52 44 rfl]
  rw [step_mid v3 44 36 rfl]
  rw [step_mid v3 36 28 rfl]
  rw [step_mid v3 28 20 rfl]
  rw [step_mid v3 20 12 rfl]
  rw [step_mid v3 12 4 rfl]
  rw [step_last v3 (((v4 >>> 59) &&& 0xf)) 4 4 15 rfl rfl
    (Nat.and_lt_two_pow _ (by norm_num))]

theorem upb63_c4 (v3 v4 v5 : Nat) (hv : v4 < 2 ^ 63) :
    (((((u8 (((((v3) &&& 0xf) <<< 4) ||| ((v4 >>> 59) &&& 0xf))))) &&& 0xf)) <<< 59) ||| ((((u8 (((v4 >>> 51) &&& 0xff))))) <<< 51) ||| ((((u8 (((v4 >>> 43) &&& 0xff))))) <<< 43) ||| ((((u8 (((v4 >>> 35) &&& 0xff))))) <<< 35) ||| ((((u8 (((v4 >>> 27) &&& 0xff))))) <<< 27) ||| ((((u8 (((v4 >>> 19) &&& 0xff))))) <<< 19) ||| ((((u8 (((v4 >>> 11) &&& 0xff))))) <<< 11) ||| ((((u8 (((v4 >>> 3) &&& 0xff))))) <<< 3) ||| ((((u8 (((((v4) &&& 0x7) <<< 5) ||| ((v5 >>> 58) &&& 0x1f)))) >>> 5) &&& 0x7)) = v4 := by
  rw [step_first (((v3) &&& 0xf)) v4 63 59 4 15 rfl rfl (by norm_num) hv]
  rw [step_mid v4 59 51 rfl]
  rw [step_mid v4 51 43 rfl]
  rw [step_mid v4 43 35 rfl]
  rw [step_mid v4 35 27 rfl]
  rw [step_mid v4 27 19 rfl]
  rw [step_mid v4 19 11 rfl]
  rw [step_mid v4 11 3 rfl]
  rw [step_last v4 (((v5 >>> 58) &&& 0x1f)) 5 3 7 rfl rfl
    (Nat.and_lt_two_pow _ (by norm_num))]

theorem upb63_c5 (v4 v5 v6 : Nat) (hv : v5 < 2 ^ 63) :
    (((((u8 (((((v4) &&& 0x7) <<< 5) ||| ((v5 >>> 58) &&& 0x1f))))) &&& 0x1f)) <<< 58) ||| ((((u8 (((v5 >>> 50) &&& 0xff))))) <<< 50) ||| ((((u8 (((v5 >>> 42) &&& 0xff))))) <<< 42) ||| ((((u8 (((v5 >>> 34) &&& 0xff))))) <<< 34) ||| ((((u8 (((v5 >>> 26) &&& 0xff))))) <<< 26) ||| ((((u8 (((v5 >>> 18) &&& 0xff))))) <<< 18) ||| ((((u8 (((v5 >>> 10) &&& 0xff))))) <<< 10) ||| ((((u8 (((v5 >>> 2) &&& 0xff))))) <<< 2) ||| ((((u8 (((((v5) &&& 0x3) <<< 6) ||| ((v6 >>> 57) &&& 0x3f)))) >>> 6) &&& 0x3)) = v5 := by
  rw [step_first (((v4) &&& 0x7)) v5 63 58 5 31 rfl rfl (by norm_num) hv]
  rw [step_mid v5 58 50 rfl]
  rw [step_mid v5 50 42 rfl]
  rw [step_mid v5 42 34 rfl]
  rw [step_mid v5 34 26 rfl]
  rw [step_mid v5 26 18 rfl]
  rw [step_mid v5 18 10 rfl]
  rw [step_mid v5 10 2 rfl]
  rw [step_last v5 (((v6 >>> 57) &&& 0x3f)) 6 2 3 rfl rfl
    (Nat.and_lt_two_pow _ (by norm_num))]

theorem upb63_c6 (v5 v6 v7 : Nat) (hv : v6 < 2 ^ 63) :
    (((((u8 (((((v5) &&& 0x3) <<< 6) ||| ((v6 >>> 57) &&& 0x3f))))) &&& 0x3f)) <<< 57) ||| ((((u8 (((v6 >>> 49) &&& 0xff))))) <<< 49) ||| ((((u8 (((v6 >>> 41) &&& 0xff))))) <<< 41) ||| ((((u8 (((v6 >>> 33) &&& 0xff))))) <<< 33) ||| ((((u8 (((v6 >>> 25) &&& 0xff))))) <<< 25) ||| ((((u8 (((v6 >>> 17) &&& 0xff))))) <<< 17) ||| ((((u8 (((v6 >>> 9) &&& 0xff))))) <<< 9) ||| ((((u8 (((v6 >>> 1) &&& 0xff))))) <<< 1) ||| ((((u8 (((((v6) &&& 0x1) <<< 7) ||| ((v7 >>> 56) &&& 0x7f)))) >>> 7) &&& 0x1)) = v6 := by
  rw [step_first (((v5) &&& 0x3)) v6 63 57 6 63 rfl rfl (by norm_num) hv]
  rw [step_mid v6 57 49 rfl]
  rw [step_mid v6 49 41 rfl]
  rw [step_mid v6 41 33 rfl]
  rw [step_mid v6 33 25 rfl]
  rw [step_mid v6 25 17 rfl]
  rw [step_mid v6 17 9 rfl]
  rw [step_mid v6 9 1 rfl]
  rw [step_last v6 (((v7 >>> 56) &&& 0x7f)) 7 1 1 rfl rfl
    (Nat.and_lt_two_pow _ (by norm_num))]

theorem upb63_c7 (v6 v7 : Nat) (hv : v7 < 2 ^ 63) :
    (((((u8 (((((v6) &&& 0x1) <<< 7) ||| ((v7 >>> 56) &&& 0x7f))))) &&& 0x7f)) <<< 56) ||| ((((u8 (((v7 >>> 48) &&& 0xff))))) <<< 48) ||| ((((u8 (((v7 >>> 40) &&& 0xff))))) <<< 40) ||| ((((u8 (((v7 >>> 32) &&& 0xff))))) <<< 32) ||| ((((u8 (((v7 >>> 24) &&& 0xff))))) <<< 24) ||| ((((u8 (((v7 >>> 16) &&& 0xff))))) <<< 16) ||| ((((u8 (((v7 >>> 8) &&& 0xff))))) <<< 8) ||| (((u8 (((v7) &&& 0xff))))) = v7 := by
  rw [step_first (((v6) &&& 0x1)) v7 63 56 7 127 rfl rfl (by norm_num) hv]
  rw [step_mid v7 56 48 rfl]
  rw [step_mid v7 48 40 rfl]
  rw [step_mid v7 40 32 rfl]
  rw [step_mid v7 32 24 rfl]
  rw [step_mid v7 24 16 rfl]
  rw [step_mid v7 16 8 rfl]
  rw [step_low v7]

theorem unpack_pack_bits_63 (v0 v1 v2 v3 v4 v5 v6 v7 : Nat)
    (h0 : v0 < 2 ^ 63) (h1 : v1 < 2 ^ 63) (h2 : v2 < 2 ^ 63) (h3 : v3 < 2 ^ 63) (h4 : v4 < 2 ^ 63) (h5 : v5 < 2 ^ 63) (h6 : v6 < 2 ^ 63) (h7 : v7 < 2 ^ 63) :
    unpack_bits_63 (pack_bits_63 v0 v1 v2 v3 v4 v5 v6 v7) =
      [v0, v1, v2, v3, v4, v5, v6, v7] := by
  have key : unpack_bits_63 (pack_bits_63 v0 v1 v2 v3 v4 v5 v6 v7) =
      [ ((((u8 (((v0 >>> 55) &&& 0xff))))) <<< 55) ||| ((((u8 (((v0 >>> 47) &&& 0xff))))) <<< 47) ||| ((((u8 (((v0 >>> 39) &&& 0xff))))) <<< 39) ||| ((((u8 (((v0 >>> 31) &&& 0xff))))) <<< 31) ||| ((((u8 (((v0 >>> 23) &&& 0xff))))) <<< 23) ||| ((((u8 (((v0 >>> 15) &&& 0xff))))) <<< 15) ||| ((((u8 (((v0 >>> 7) &&& 0xff))))) <<< 7) ||| ((((u8 (((((v0) &&& 0x7f) <<< 1) ||| ((v1 >>> 62) &&& 0x1)))) >>> 1) &&& 0x7f)),
        (((((u8 (((((v0) &&& 0x7f) <<< 1) ||| ((v1 >>> 62) &&& 0x1))))) &&& 0x1)) <<< 62) ||| ((((u8 (((v1 >>> 54) &&& 0xff))))) <<< 54) ||| ((((u8 (((v1 >>> 46) &&& 0xff))))) <<< 46) ||| ((((u8 (((v1 >>> 38) &&& 0xff))))) <<< 38) ||| ((((u8 (((v1 >>> 30) &&& 0xff))))) <<< 30) ||| ((((u8 (((v1 >>> 22) &&& 0xff))))) <<< 22) ||| ((((u8 (((v1 >>> 14) &&& 0xff))))) <<< 14) ||| ((((u8 (((v1 >>> 6) &&& 0xff))))) <<< 6) ||| ((((u8 (((((v1) &&& 0x3f) <<< 2) ||| ((v2 >>> 61) &&& 0x3)))) >>> 2) &&& 0x3f)),
        (((((u8 (((((v1) &&& 0x3f) <<< 2) ||| ((v2 >>> 61) &&& 0x3))))) &&& 0x3)) <<< 61) ||| ((((u8 (((v2 >>> 53) &&& 0xff))))) <<< 53) ||| ((((u8 (((v2 >>> 45) &&& 0xff))))) <<< 45) ||| ((((u8 (((v2 >>> 37) &&& 0xff))))) <<< 37) ||| ((((u8 (((v2 >>> 29) &&& 0xff))))) <<< 29) ||| ((((u8 (((v2 >>> 21) &&& 0xff))))) <<< 21) ||| ((((u8 (((v2 >>> 13) &&& 0xff))))) <<< 13) ||| ((((u8 (((v2 >>> 5) &&& 0xff))))) <<< 5) ||| ((((u8 (((((v2) &&& 0x1f) <<< 3) ||| ((v3 >>> 60) &&& 0x7)))) >>> 3) &&& 0x1f)),
        (((((u8 (((((v2) &&& 0x1f) <<< 3) ||| ((v3 >>> 60) &&& 0x7))))) &&& 0x7)) <<< 60) ||| ((((u8 (((v3 >>> 52) &&& 0xff))))) <<< 52) ||| ((((u8 (((v3 >>> 44) &&& 0xff))))) <<< 44) ||| ((((u8 (((v3 >>> 36) &&& 0xff))))) <<< 36) ||| ((((u8 (((v3 >>> 28) &&& 0xff))))) <<< 28) ||| ((((u8 (((v3 >>> 20) &&& 0xff))))) <<< 20) ||| ((((u8 (((v3 >>> 12) &&& 0xff))))) <<< 12) ||| ((((u8 (((v3 >>> 4) &&& 0xff))))) <<< 4) ||| ((((u8 (((((v3) &&& 0xf) <<< 4) ||| ((v4 >>> 59) &&& 0xf)))) >>> 4) &&& 0xf)),
        (((((u8 (((((v3) &&& 0xf) <<< 4) ||| ((v4 >>> 59) &&& 0xf))))) &&& 0xf)) <<< 59) ||| ((((u8 (((v4 >>> 51) &&& 0xff))))) <<< 51) ||| ((((u8 (((v4 >>> 43) &&& 0xff))))) <<< 43) ||| ((((u8 (((v4 >>> 35) &&& 0xff))))) <<< 35) ||| ((((u8 (((v4 >>> 27) &&& 0xff))))) <<< 27) ||| ((((u8 (((v4 >>> 19) &&& 0xff))))) <<< 19) ||| ((((u8 (((v4 >>> 11) &&& 0xff))))) <<< 11) ||| ((((u8 (((v4 >>> 3) &&& 0xff))))) <<< 3) ||| ((((u8 (((((v4) &&& 0x7) <<< 5) ||| ((v5 >>> 58) &&& 0x1f)))) >>> 5) &&& 0x7)),
        (((((u8 (((((v4) &&& 0x7) <<< 5) ||| ((v5 >>> 58) &&& 0x1f))))) &&& 0x1f)) <<< 58) ||| ((((u8 (((v5 >>> 50) &&& 0xff))))) <<< 50) ||| ((((u8 (((v5 >>> 42) &&& 0xff))))) <<< 42) ||| ((((u8 (((v5 >>> 34) &&& 0xff))))) <<< 34) ||| ((((u8 (((v5 >>> 26) &&& 0xff))))) <<< 26) ||| ((((u8 (((v5 >>> 18) &&& 0xff))))) <<< 18) ||| ((((u8 (((v5 >>> 10) &&& 0xff))))) <<< 10) ||| ((((u8 (((v5 >>> 2) &&& 0xff))))) <<< 2) ||| ((((u8 (((((v5) &&& 0x3) <<< 6) ||| ((v6 >>> 57) &&& 0x3f)))) >>> 6) &&& 0x3)),
        (((((u8 (((((v5) &&& 0x3) <<< 6) ||| ((v6 >>> 57) &&& 0x3f))))) &&& 0x3f)) <<< 57) ||| ((((u8 (((v6 >>> 49) &&& 0xff))))) <<< 49) ||| ((((u8 (((v6 >>> 41) &&& 0xff))))) <<< 41) ||| ((((u8 (((v6 >>> 33) &&& 0xff))))) <<< 33) ||| ((((u8 (((v6 >>> 25) &&& 0xff))))) <<< 25) ||| ((((u8 (((v6 >>> 17) &&& 0xff))))) <<< 17) ||| ((((u8 (((v6 >>> 9) &&& 0xff))))) <<< 9) ||| ((((u8 (((v6 >>> 1) &&& 0xff))))) <<< 1) ||| ((((u8 (((((v6) &&& 0x1) <<< 7) ||| ((v7 >>> 56) &&& 0x7f)))) >>> 7) &&& 0x1)),
        (((((u8 (((((v6) &&& 0x1) <<< 7) ||| ((v7 >>> 56) &&& 0x7f))))) &&& 0x7f)) <<< 56) ||| ((((u8 (((v7 >>> 48) &&& 0xff))))) <<< 48) ||| ((((u8 (((v7 >>> 40) &&& 0xff))))) <<< 40) ||| ((((u8 (((v7 >>> 32) &&& 0xff))))) <<< 32) ||| ((((u8 (((v7 >>> 24) &&& 0xff))))) <<< 24) ||| ((((u8 (((v7 >>> 16) &&& 0xff))))) <<< 16) ||| ((((u8 (((v7 >>> 8) &&& 0xff))))) <<< 8) ||| (((u8 (((v7) &&& 0xff))))) ] := rfl
  rw [key]
  rw [upb63_c0 v0 v1 h0,
    upb63_c1 v0 v1 v2 h1,
    upb63_c2 v1 v2 v3 h2,
    upb63_c3 v2 v3 v4 h3,
    upb63_c4 v3 v4 v5 h4,
    upb63_c5 v4 v5 v6 h5,
    upb63_c6 v5 v6 v7 h6,
    upb63_c7 v6 v7 h7]


/-- The per-width dispatch of `pack_bits_block` (src/datasketches/src/theta/bit_pack.rs).
Applies the fully-unrolled packer for `bits`. The `_` case is unreachable under the
dispatcher guard `1 ≤ bits ≤ 63`. -/
def packBitsExpanded (bits v0 v1 v2 v3 v4 v5 v6 v7 : Nat) : List Nat :=
  match bits with
  | 1 => pack_bits_1 v0 v1 v2 v3 v4 v5 v6 v7
  | 2 => pack_bits_2 v0 v1 v2 v3 v4 v5 v6 v7
  | 3 => pack_bits_3 v0 v1 v2 v3 v4 v5 v6 v7
  | 4 => pack_bits_4 v0 v1 v2 v3 v4 v5 v6 v7
  | 5 => pack_bits_5 v0 v1 v2 v3 v4 v5 v6 v7
  | 6 => pack_bits_6 v0 v1 v2 v3 v4 v5 v6 v7
  | 7 => pack_bits_7 v0 v1 v2 v3 v4 v5 v6 v7
  | 8 => pack_bits_8 v0 v1 v2 v3 v4 v5 v6 v7
  | 9 => pack_bits_9 v0 v1 v2 v3 v4 v5 v6 v7
  | 10 => pack_bits_10 v0 v1 v2 v3 v4 v5 v6 v7
  | 11 => pack_bits_11 v0 v1 v2 v3 v4 v5 v6 v7
  | 12 => pack_bits_12 v0 v1 v2 v3 v4 v5 v6 v7
  | 13 => pack_bits_13 v0 v1 v2 v3 v4 v5 v6 v7
  | 14 => pack_bits_14 v0 v1 v2 v3 v4 v5 v6 v7
  | 15 => pack_bits_15 v0 v1 v2 v3 v4 v5 v6 v7
  | 16 => pack_bits_16 v0 v1 v2 v3 v4 v5 v6 v7
  | 17 => pack_bits_17 v0 v1 v2 v3 v4 v5 v6 v7
  | 18 => pack_bits_18 v0 v1 v2 v3 v4 v5 v6 v7
  | 19 => pack_bits_19 v0 v1 v2 v3 v4 v5 v6 v7
  | 20 => pack_bits_20 v0 v1 v2 v3 v4 v5 v6 v7
  | 21 => pack_bits_21 v0 v1 v2 v3 v4 v5 v6 v7
  | 22 => pack_bits_22 v0 v1 v2 v3 v4 v5 v6 v7
  | 23 => pack_bits_23 v0 v1 v2 v3 v4 v5 v6 v7
  | 24 => pack_bits_24 v0 v1 v2 v3 v4 v5 v6 v7
  | 25 => pack_bits_25 v0 v1 v2 v3 v4 v5 v6 v7
  | 26 => pack_bits_26 v0 v1 v2 v3 v4 v5 v6 v7
  | 27 => pack_bits_27 v0 v1 v2 v3 v4 v5 v6 v7
  | 28 => pack_bits_28 v0 v1 v2 v3 v4 v5 v6 v7
  | 29 => pack_bits_29 v0 v1 v2 v3 v4 v5 v6 v7
  | 30 => pack_bits_30 v0 v1 v2 v3 v4 v5 v6 v7
  | 31 => pack_bits_31 v0 v1 v2 v3 v4 v5 v6 v7
  | 32 => pack_bits_32 v0 v1 v2 v3 v4 v5 v6 v7
  | 33 => pack_bits_33 v0 v1 v2 v3 v4 v5 v6 v7
  | 34 => pack_bits_34 v0 v1 v2 v3 v4 v5 v6 v7
  | 35 => pack_bits_35 v0 v1 v2 v3 v4 v5 v6 v7
  | 36 => pack_bits_36 v0 v1 v2 v3 v4 v5 v6 v7
  | 37 => pack_bits_37 v0 v1 v2 v3 v4 v5 v6 v7
  | 38 => pack_bits_38 v0 v1 v2 v3 v4 v5 v6 v7
  | 39 => pack_bits_39 v0 v1 v2 v3 v4 v5 v6 v7
  | 40 => pack_bits_40 v0 v1 v2 v3 v4 v5 v6 v7
  | 41 => pack_bits_41 v0 v1 v2 v3 v4 v5 v6 v7
  | 42 => pack_bits_42 v0 v1 v2 v3 v4 v5 v6 v7
  | 43 => pack_bits_43 v0 v1 v2 v3 v4 v5 v6 v7
  | 44 => pack_bits_44 v0 v1 v2 v3 v4 v5 v6 v7
  | 45 => pack_bits_45 v0 v1 v2 v3 v4 v5 v6 v7
  | 46 => pack_bits_46 v0 v1 v2 v3 v4 v5 v6 v7
  | 47 => pack_bits_47 v0 v1 v2 v3 v4 v5 v6 v7
  | 48 => pack_bits_48 v0 v1 v2 v3 v4 v5 v6 v7
  | 49 => pack_bits_49 v0 v1 v2 v3 v4 v5 v6 v7
  | 50 => pack_bits_50 v0 v1 v2 v3 v4 v5 v6 v7
  | 51 => pack_bits_51 v0 v1 v2 v3 v4 v5 v6 v7
  | 52 => pack_bits_52 v0 v1 v2 v3 v4 v5 v6 v7
  | 53 => pack_bits_53 v0 v1 v2 v3 v4 v5 v6 v7
  | 54 => pack_bits_54 v0 v1 v2 v3 v4 v5 v6 v7
  | 55 => pack_bits_55 v0 v1 v2 v3 v4 v5 v6 v7
  | 56 => pack_bits_56 v0 v1 v2 v3 v4 v5 v6 v7
  | 57 => pack_bits_57 v0 v1 v2 v3 v4 v5 v6 v7
  | 58 => pack_bits_58 v0 v1 v2 v3 v4 v5 v6 v7
  | 59 => pack_bits_59 v0 v1 v2 v3 v4 v5 v6 v7
  | 60 => pack_bits_60 v0 v1 v2 v3 v4 v5 v6 v7
  | 61 => pack_bits_61 v0 v1 v2 v3 v4 v5 v6 v7
  | 62 => pack_bits_62 v0 v1 v2 v3 v4 v5 v6 v7
  | 63 => pack_bits_63 v0 v1 v2 v3 v4 v5 v6 v7
  | _ => []

/-- The per-width dispatch of `unpack_bits_block`. -/
def unpackBitsExpanded (bits : Nat) (bs : List Nat) : List Nat :=
  match bits with
  | 1 => unpack_bits_1 bs
  | 2 => unpack_bits_2 bs
  | 3 => unpack_bits_3 bs
  | 4 => unpack_bits_4 bs
  | 5 => unpack_bits_5 bs
  | 6 => unpack_bits_6 bs
  | 7 => unpack_bits_7 bs
  | 8 => unpack_bits_8 bs
  | 9 => unpack_bits_9 bs
  | 10 => unpack_bits_10 bs
  | 11 => unpack_bits_11 bs
  | 12 => unpack_bits_12 bs
  | 13 => unpack_bits_13 bs
  | 14 => unpack_bits_14 bs
  | 15 => unpack_bits_15 bs
  | 16 => unpack_bits_16 bs
  | 17 => unpack_bits_17 bs
  | 18 => unpack_bits_18 bs
  | 19 => unpack_bits_19 bs
  | 20 => unpack_bits_20 bs
  | 21 => unpack_bits_21 bs
  | 22 => unpack_bits_22 bs
  | 23 => unpack_bits_23 bs
  | 24 => unpack_bits_24 bs
  | 25 => unpack_bits_25 bs
  | 26 => unpack_bits_26 bs
  | 27 => unpack_bits_27 bs
  | 28 => unpack_bits_28 bs
  | 29 => unpack_bits_29 bs
  | 30 => unpack_bits_30 bs
  | 31 => unpack_bits_31 bs
  | 32 => unpack_bits_32 bs
  | 33 => unpack_bits_33 bs
  | 34 => unpack_bits_34 bs
  | 35 => unpack_bits_35 bs
  | 36 => unpack_bits_36 bs
  | 37 => unpack_bits_37 bs
  | 38 => unpack_bits_38 bs
  | 39 => unpack_bits_39 bs
  | 40 => unpack_bits_40 bs
  | 41 => unpack_bits_41 bs
  | 42 => unpack_bits_42 bs
  | 43 => unpack_bits_43 bs
  | 44 => unpack_bits_44 bs
  | 45 => unpack_bits_45 bs
  | 46 => unpack_bits_46 bs
  | 47 => unpack_bits_47 bs
  | 48 => unpack_bits_48 bs
  | 49 => unpack_bits_49 bs
  | 50 => unpack_bits_50 bs
  | 51 => unpack_bits_51 bs
  | 52 => unpack_bits_52 bs
  | 53 => unpack_bits_53 bs
  | 54 => unpack_bits_54 bs
  | 55 => unpack_bits_55 bs
  | 56 => unpack_bits_56 bs
  | 57 => unpack_bits_57 bs
  | 58 => unpack_bits_58 bs
  | 59 => unpack_bits_59 bs
  | 60 => unpack_bits_60 bs
  | 61 => unpack_bits_61 bs
  | 62 => unpack_bits_62 bs
  | 63 => unpack_bits_63 bs
  | _ => []


/-- `pack_bits_block` (src/datasketches/src/theta/bit_pack.rs, lines 4978-5055).
`none` models a panic: the `values.len() == 8` assert, the bits-range assert,
the buffer-size assert `bytes.len() < bits * BLOCK_WIDTH` exactly as written in
the source (note the `<`), and the out-of-bounds slice indexing of the unrolled
packer when the buffer holds fewer than `bits` bytes.  On success the result is
the written `bits`-byte image followed by the untouched rest of the buffer. -/
def pack_bits_block (values : List Nat) (bytes : List Nat) (bits : Nat) : Option (List Nat) :=
  if values.length = 8 ∧ 1 ≤ bits ∧ bits ≤ 63 ∧ bytes.length < bits * 8 ∧ bits ≤ bytes.length then
    some (packBitsExpanded bits (values.getD 0 0) (values.getD 1 0) (values.getD 2 0)
      (values.getD 3 0) (values.getD 4 0) (values.getD 5 0) (values.getD 6 0) (values.getD 7 0)
      ++ bytes.drop bits)
  else none

/-- `unpack_bits_block` (src/datasketches/src/theta/bit_pack.rs, lines 5064-5141).
`none` models a panic, with the same guards as `pack_bits_block` (the source
asserts are identical, including the inverted buffer-size check).  On success
the result is the list of the 8 unpacked values (every slot of the output
buffer is overwritten). -/
def unpack_bits_block (values : List Nat) (bytes : List Nat) (bits : Nat) : Option (List Nat) :=
  if values.length = 8 ∧ 1 ≤ bits ∧ bits ≤ 63 ∧ bytes.length < bits * 8 ∧ bits ≤ bytes.length then
    some (unpackBitsExpanded bits bytes)
  else none

/-! ## Claims C2 and C8: the block codec round trip and its width/buffer guards -/

set_option maxHeartbeats 1000000 in
/-- C2: for every bit width `b ∈ 1..=63` and every 8 values each below `2 ^ b`,
`unpack_bits_block` applied to the `b`-byte output of `pack_bits_block` (packed
into a zeroed `b`-byte buffer, as the callers in `sketch.rs` do) reproduces the
values exactly. -/
theorem c2_pack_unpack_block_roundtrip (bits : Nat) (h1 : 1 ≤ bits) (h2 : bits ≤ 63)
    (v0 v1 v2 v3 v4 v5 v6 v7 : Nat)
    (hv0 : v0 < 2 ^ bits) (hv1 : v1 < 2 ^ bits) (hv2 : v2 < 2 ^ bits) (hv3 : v3 < 2 ^ bits)
    (hv4 : v4 < 2 ^ bits) (hv5 : v5 < 2 ^ bits) (hv6 : v6 < 2 ^ bits) (hv7 : v7 < 2 ^ bits) :
    (pack_bits_block [v0, v1, v2, v3, v4, v5, v6, v7] (List.replicate bits 0) bits).bind
        (fun bs => unpack_bits_block (List.replicate 8 0) bs bits) =
      some [v0, v1, v2, v3, v4, v5, v6, v7] := by
  interval_cases bits
  · exact congrArg some (unpack_pack_bits_1 v0 v1 v2 v3 v4 v5 v6 v7 hv0 hv1 hv2 hv3 hv4 hv5 hv6 hv7)
  · exact congrArg some (unpack_pack_bits_2 v0 v1 v2 v3 v4 v5 v6 v7 hv0 hv1 hv2 hv3 hv4 hv5 hv6 hv7)
  · exact congrArg some (unpack_pack_bits_3 v0 v1 v2 v3 v4 v5 v6 v7 hv0 hv1 hv2 hv3 hv4 hv5 hv6 hv7)
  · exact congrArg some (unpack_pack_bits_4 v0 v1 v2 v3 v4 v5 v6 v7 hv0 hv1 hv2 hv3 hv4 hv5 hv6 hv7)
  · exact congrArg some (unpack_pack_bits_5 v0 v1 v2 v3 v4 v5 v6 v7 hv0 hv1 hv2 hv3 hv4 hv5 hv6 hv7)
  · exact congrArg some (unpack_pack_bits_6 v0 v1 v2 v3 v4 v5 v6 v7 hv0 hv1 hv2 hv3 hv4 hv5 hv6 hv7)
  · exact congrArg some (unpack_pack_bits_7 v0 v1 v2 v3 v4 v5 v6 v7 hv0 hv1 hv2 hv3 hv4 hv5 hv6 hv7)
  · exact congrArg some (unpack_pack_bits_8 v0 v1 v2 v3 v4 v5 v6 v7 hv0 hv1 hv2 hv3 hv4 hv5 hv6 hv7)
  · exact congrArg some (unpack_pack_bits_9 v0 v1 v2 v3 v4 v5 v6 v7 hv0 hv1 hv2 hv3 hv4 hv5 hv6 hv7)
  · exact congrArg some (unpack_pack_bits_10 v0 v1 v2 v3 v4 v5 v6 v7 hv0 hv1 hv2 hv3 hv4 hv5 hv6 hv7)
  · exact congrArg some (unpack_pack_bits_11 v0 v1 v2 v3 v4 v5 v6 v7 hv0 hv1 hv2 hv3 hv4 hv5 hv6 hv7)
  · exact congrArg some (unpack_pack_bits_12 v0 v1 v2 v3 v4 v5 v6 v7 hv0 hv1 hv2 hv3 hv4 hv5 hv6 hv7)
  · exact congrArg some (unpack_pack_bits_13 v0 v1 v2 v3 v4 v5 v6 v7 hv0 hv1 hv2 hv3 hv4 hv5 hv6 hv7)
  · exact congrArg some (unpack_pack_bits_14 v0 v1 v2 v3 v4 v5 v6 v7 hv0 hv1 hv2 hv3 hv4 hv5 hv6 hv7)
  · exact congrArg some (unpack_pack_bits_15 v0 v1 v2 v3 v4 v5 v6 v7 hv0 hv1 hv2 hv3 hv4 hv5 hv6 hv7)
  · exact congrArg some (unpack_pack_bits_16 v0 v1 v2 v3 v4 v5 v6 v7 hv0 hv1 hv2 hv3 hv4 hv5 hv6 hv7)
  · exact congrArg some (unpack_pack_bits_17 v0 v1 v2 v3 v4 v5 v6 v7 hv0 hv1 hv2 hv3 hv4 hv5 hv6 hv7)
  · exact congrArg some (unpack_pack_bits_18 v0 v1 v2 v3 v4 v5 v6 v7 hv0 hv1 hv2 hv3 hv4 hv5 hv6 hv7)
  · exact congrArg some (unpack_pack_bits_19 v0 v1 v2 v3 v4 v5 v6 v7 hv0 hv1 hv2 hv3 hv4 hv5 hv6 hv7)
  · exact congrArg some (unpack_pack_bits_20 v0 v1 v2 v3 v4 v5 v6 v7 hv0 hv1 hv2 hv3 hv4 hv5 hv6 hv7)
  · exact congrArg some (unpack_pack_bits_21 v0 v1 v2 v3 v4 v5 v6 v7 hv0 hv1 hv2 hv3 hv4 hv5 hv6 hv7)
  · exact congrArg some (unpack_pack_bits_22 v0 v1 v2 v3 v4 v5 v6 v7 hv0 hv1 hv2 hv3 hv4 hv5 hv6 hv7)
  · exact congrArg some (unpack_pack_bits_23 v0 v1 v2 v3 v4 v5 v6 v7 hv0 hv1 hv2 hv3 hv4 hv5 hv6 hv7)
  · exact congrArg some (unpack_pack_bits_24 v0 v1 v2 v3 v4 v5 v6 v7 hv0 hv1 hv2 hv3 hv4 hv5 hv6 hv7)
  · exact congrArg some (unpack_pack_bits_25 v0 v1 v2 v3 v4 v5 v6 v7 hv0 hv1 hv2 hv3 hv4 hv5 hv6 hv7)
  · exact congrArg some (unpack_pack_bits_26 v0 v1 v2 v3 v4 v5 v6 v7 hv0 hv1 hv2 hv3 hv4 hv5 hv6 hv7)
  · exact congrArg some (unpack_pack_bits_27 v0 v1 v2 v3 v4 v5 v6 v7 hv0 hv1 hv2 hv3 hv4 hv5 hv6 hv7)
  · exact congrArg some (unpack_pack_bits_28 v0 v1 v2 v3 v4 v5 v6 v7 hv0 hv1 hv2 hv3 hv4 hv5 hv6 hv7)
  · exact congrArg some (unpack_pack_bits_29 v0 v1 v2 v3 v4 v5 v6 v7 hv0 hv1 hv2 hv3 hv4 hv5 hv6 hv7)
  · exact congrArg some (unpack_pack_bits_30 v0 v1 v2 v3 v4 v5 v6 v7 hv0 hv1 hv2 hv3 hv4 hv5 hv6 hv7)
  · exact congrArg some (unpack_pack_bits_31 v0 v1 v2 v3 v4 v5 v6 v7 hv0 hv1 hv2 hv3 hv4 hv5 hv6 hv7)
  · exact congrArg some (unpack_pack_bits_32 v0 v1 v2 v3 v4 v5 v6 v7 hv0 hv1 hv2 hv3 hv4 hv5 hv6 hv7)
  · exact congrArg some (unpack_pack_bits_33 v0 v1 v2 v3 v4 v5 v6 v7 hv0 hv1 hv2 hv3 hv4 hv5 hv6 hv7)
  · exact congrArg some (unpack_pack_bits_34 v0 v1 v2 v3 v4 v5 v6 v7 hv0 hv1 hv2 hv3 hv4 hv5 hv6 hv7)
  · exact congrArg some (unpack_pack_bits_35 v0 v1 v2 v3 v4 v5 v6 v7 hv0 hv1 hv2 hv3 hv4 hv5 hv6 hv7)
  · exact congrArg some (unpack_pack_bits_36 v0 v1 v2 v3 v4 v5 v6 v7 hv0 hv1 hv2 hv3 hv4 hv5 hv6 hv7)
  · exact congrArg some (unpack_pack_bits_37 v0 v1 v2 v3 v4 v5 v6 v7 hv0 hv1 hv2 hv3 hv4 hv5 hv6 hv7)
  · exact congrArg some (unpack_pack_bits_38 v0 v1 v2 v3 v4 v5 v6 v7 hv0 hv1 hv2 hv3 hv4 hv5 hv6 hv7)
  · exact congrArg some (unpack_pack_bits_39 v0 v1 v2 v3 v4 v5 v6 v7 hv0 hv1 hv2 hv3 hv4 hv5 hv6 hv7)
  · exact congrArg some (unpack_pack_bits_40 v0 v1 v2 v3 v4 v5 v6 v7 hv0 hv1 hv2 hv3 hv4 hv5 hv6 hv7)
  · exact congrArg some (unpack_pack_bits_41 v0 v1 v2 v3 v4 v5 v6 v7 hv0 hv1 hv2 hv3 hv4 hv5 hv6 hv7)
  · exact congrArg some (unpack_pack_bits_42 v0 v1 v2 v3 v4 v5 v6 v7 hv0 hv1 hv2 hv3 hv4 hv5 hv6 hv7)
  · exact congrArg some (unpack_pack_bits_43 v0 v1 v2 v3 v4 v5 v6 v7 hv0 hv1 hv2 hv3 hv4 hv5 hv6 hv7)
  · exact congrArg some (unpack_pack_bits_44 v0 v1 v2 v3 v4 v5 v6 v7 hv0 hv1 hv2 hv3 hv4 hv5 hv6 hv7)
  · exact congrArg some (unpack_pack_bits_45 v0 v1 v2 v3 v4 v5 v6 v7 hv0 hv1 hv2 hv3 hv4 hv5 hv6 hv7)
  · exact congrArg some (unpack_pack_bits_46 v0 v1 v2 v3 v4 v5 v6 v7 hv0 hv1 hv2 hv3 hv4 hv5 hv6 hv7)
  · exact congrArg some (unpack_pack_bits_47 v0 v1 v2 v3 v4 v5 v6 v7 hv0 hv1 hv2 hv3 hv4 hv5 hv6 hv7)
  · exact congrArg some (unpack_pack_bits_48 v0 v1 v2 v3 v4 v5 v6 v7 hv0 hv1 hv2 hv3 hv4 hv5 hv6 hv7)
  · exact congrArg some (unpack_pack_bits_49 v0 v1 v2 v3 v4 v5 v6 v7 hv0 hv1 hv2 hv3 hv4 hv5 hv6 hv7)
  · exact congrArg some (unpack_pack_bits_50 v0 v1 v2 v3 v4 v5 v6 v7 hv0 hv1 hv2 hv3 hv4 hv5 hv6 hv7)
  · exact congrArg some (unpack_pack_bits_51 v0 v1 v2 v3 v4 v5 v6 v7 hv0 hv1 hv2 hv3 hv4 hv5 hv6 hv7)
  · exact congrArg some (unpack_pack_bits_52 v0 v1 v2 v3 v4 v5 v6 v7 hv0 hv1 hv2 hv3 hv4 hv5 hv6 hv7)
  · exact congrArg some (unpack_pack_bits_53 v0 v1 v2 v3 v4 v5 v6 v7 hv0 hv1 hv2 hv3 hv4 hv5 hv6 hv7)
  · exact congrArg some (unpack_pack_bits_54 v0 v1 v2 v3 v4 v5 v6 v7 hv0 hv1 hv2 hv3 hv4 hv5 hv6 hv7)
  · exact congrArg some (unpack_pack_bits_55 v0 v1 v2 v3 v4 v5 v6 v7 hv0 hv1 hv2 hv3 hv4 hv5 hv6 hv7)
  · exact congrArg some (unpack_pack_bits_56 v0 v1 v2 v3 v4 v5 v6 v7 hv0 hv1 hv2 hv3 hv4 hv5 hv6 hv7)
  · exact congrArg some (unpack_pack_bits_57 v0 v1 v2 v3 v4 v5 v6 v7 hv0 hv1 hv2 hv3 hv4 hv5 hv6 hv7)
  · exact congrArg some (unpack_pack_bits_58 v0 v1 v2 v3 v4 v5 v6 v7 hv0 hv1 hv2 hv3 hv4 hv5 hv6 hv7)
  · exact congrArg some (unpack_pack_bits_59 v0 v1 v2 v3 v4 v5 v6 v7 hv0 hv1 hv2 hv3 hv4 hv5 hv6 hv7)
  · exact congrArg some (unpack_pack_bits_60 v0 v1 v2 v3 v4 v5 v6 v7 hv0 hv1 hv2 hv3 hv4 hv5 hv6 hv7)
  · exact congrArg some (unpack_pack_bits_61 v0 v1 v2 v3 v4 v5 v6 v7 hv0 hv1 hv2 hv3 hv4 hv5 hv6 hv7)
  · exact congrArg some (unpack_pack_bits_62 v0 v1 v2 v3 v4 v5 v6 v7 hv0 hv1 hv2 hv3 hv4 hv5 hv6 hv7)
  · exact congrArg some (unpack_pack_bits_63 v0 v1 v2 v3 v4 v5 v6 v7 hv0 hv1 hv2 hv3 hv4 hv5 hv6 hv7)

/-- Witness for C2 at `bits = 11` with values `[1, 0, 2047, 2, 1, 0, 3, 1024]`. -/
theorem c2_pack_unpack_block_roundtrip_witness :
    (pack_bits_block [1, 0, 2047, 2, 1, 0, 3, 1024] (List.replicate 11 0) 11).bind
        (fun bs => unpack_bits_block (List.replicate 8 0) bs 11) =
      some [1, 0, 2047, 2, 1, 0, 3, 1024] :=
  c2_pack_unpack_block_roundtrip 11 (by decide) (by decide) 1 0 2047 2 1 0 3 1024
    (by decide) (by decide) (by decide) (by decide) (by decide) (by decide) (by decide)
    (by decide)

/-- C8 (code bug evidence): the buffer-size assert in `pack_bits_block` and
`unpack_bits_block` is inverted (`assert!(bytes.len() < bits * 8)`).  At width 1
a buffer of 8 bytes - which holds at least `bits` bytes, so the claim and the
function's own doc comment say it must be accepted - makes both functions panic
with "buffer too small", while the 1-byte buffer is accepted.  Widths 0 and 64
are rejected as the claim states. -/
theorem c8_block_buffer_assert_inverted :
    pack_bits_block (List.replicate 8 0) (List.replicate 8 0) 1 = none ∧
    unpack_bits_block (List.replicate 8 0) (List.replicate 8 0) 1 = none ∧
    pack_bits_block (List.replicate 8 0) (List.replicate 1 0) 1 = some [0] ∧
    pack_bits_block (List.replicate 8 0) (List.replicate 1 0) 0 = none ∧
    unpack_bits_block (List.replicate 8 0) (List.replicate 64 0) 64 = none := by
  refine ⟨rfl, rfl, rfl, rfl, rfl⟩

/-! ## Stateful bit packer / unpacker
(src/datasketches/src/theta/bit_pack.rs, `BitPacker` / `BitUnpacker`)

Buffers are `List Nat` of byte values.  Rust panics on an out-of-range index;
the embedding's `List.set` is a no-op out of range and `getD _ 0` reads 0, and
every theorem below supplies a buffer large enough that all accesses stay in
range (the round-trip equalities could not hold otherwise). -/

/-- `BLOCK_WIDTH` -/
def BLOCK_WIDTH : Nat := 8

/-- `low_bit_to_byte_mask` -/
def low_bit_to_byte_mask (bits : Nat) : Nat :=
  if bits ≥ 8 then 255 else (1 <<< bits) - 1

/-- `BitPacker` state: the buffer plus the write position. -/
structure BitPacker where
  bytes : List Nat
  byte_index : Nat
  byte_bit_used : Nat
  deriving Repr, DecidableEq

/-- `BitPacker::new` -/
def BitPacker.new (bytes : List Nat) : BitPacker :=
  { bytes := bytes, byte_index := 0, byte_bit_used := 0 }

/-- `BitPacker::byte_used` -/
def BitPacker.byte_used (st : BitPacker) : Nat :=
  if st.byte_bit_used = 0 then st.byte_index else st.byte_index + 1

/-- The `while bits >= 8` loop of `pack_value`: write whole bytes, most
significant first.  Structurally recursive on `bits` (one step consumes 8). -/
def packWholeBytes (value : Nat) : Nat → BitPacker → BitPacker
  | bits + 8, st =>
    packWholeBytes value bits
      { st with
        bytes := st.bytes.set st.byte_index (u8 (value >>> bits))
        byte_index := st.byte_index + 1 }
  | _, st => st

/-- The byte-aligned remainder of `pack_value`: the whole-byte loop followed by
the trailing partial-byte write. -/
def packRest (value bits : Nat) (st : BitPacker) : BitPacker :=
  let st1 := packWholeBytes value bits st
  let r := bits % 8
  if r > 0 then
    { st1 with
      bytes := st1.bytes.set st1.byte_index (u8 (value <<< (8 - r)))
      byte_bit_used := r }
  else st1

/-- `BitPacker::pack_value` -/
def BitPacker.pack_value (st : BitPacker) (value bits : Nat) : BitPacker :=
  if st.byte_bit_used > 0 then
    let remain_bits := 8 - st.byte_bit_used
    let remain_mask := low_bit_to_byte_mask remain_bits
    if bits < remain_bits then
      { st with
        bytes := st.bytes.set st.byte_index
          (st.bytes.getD st.byte_index 0 |||
            (u8 (value <<< (remain_bits - bits)) &&& remain_mask))
        byte_bit_used := st.byte_bit_used + bits }
    else
      packRest value (bits - remain_bits)
        { st with
          bytes := st.bytes.set st.byte_index
            (st.bytes.getD st.byte_index 0 |||
              (u8 (value >>> (bits - remain_bits)) &&& remain_mask))
          byte_index := st.byte_index + 1
          byte_bit_used := 0 }
  else packRest value bits st

/-- `BitUnpacker` state: the buffer plus the read position. -/
structure BitUnpacker where
  bytes : List Nat
  byte_index : Nat
  byte_bit_used : Nat
  deriving Repr, DecidableEq

/-- `BitUnpacker::new` -/
def BitUnpacker.new (bytes : List Nat) : BitUnpacker :=
  { bytes := bytes, byte_index := 0, byte_bit_used := 0 }

/-- The `while bits >= 8` loop of `unpack_value`: shift in whole bytes.  The
accumulated value always stays below `2 ^ 64`, so no truncation is needed.
Structurally recursive on `bits` (one step consumes 8). -/
def unpackWholeBytes : Nat → Nat → BitUnpacker → Nat × BitUnpacker
  | value, bits + 8, st =>
    unpackWholeBytes ((value <<< 8) ||| st.bytes.getD st.byte_index 0) bits
      { st with byte_index := st.byte_index + 1 }
  | value, _, st => (value, st)

/-- `BitUnpacker::unpack_value` -/
def BitUnpacker.unpack_value (st : BitUnpacker) (bits : Nat) : Nat × BitUnpacker :=
  if bits = 0 then (0, st)
  else
    let avail_bits := 8 - st.byte_bit_used
    let chunk_bits := min avail_bits bits
    let chunk_mask := low_bit_to_byte_mask chunk_bits
    let value := (st.bytes.getD st.byte_index 0 >>> (avail_bits - chunk_bits)) &&& chunk_mask
    let st1 := if chunk_bits = avail_bits then { st with byte_index := st.byte_index + 1 } else st
    let st2 := { st1 with byte_bit_used := (st.byte_bit_used + chunk_bits) &&& 7 }
    let bits1 := bits - chunk_bits
    let (value2, st3) := unpackWholeBytes value bits1 st2
    let r := bits1 % 8
    if r > 0 then
      ((value2 <<< r) ||| (st3.bytes.getD st3.byte_index 0 >>> (8 - r)),
        { st3 with byte_bit_used := r })
    else (value2, st3)

/-- Pack a sequence of (value, width) pairs in order. -/
def packSeq (st : BitPacker) (ps : List (Nat × Nat)) : BitPacker :=
  ps.foldl (fun st p => st.pack_value p.1 p.2) st

/-- Unpack a sequence of widths in order, collecting the values. -/
def unpackSeq (st : BitUnpacker) : List Nat → List Nat × BitUnpacker
  | [] => ([], st)
  | b :: bs =>
    let (v, st1) := st.unpack_value b
    let (vs, st2) := unpackSeq st1 bs
    (v :: vs, st2)


/- Core arithmetic lemmas for the stream semantics. -/

theorem extract_lo (x a s c : Nat) (h : s + c ≤ a) :
    (x % 2 ^ a) / 2 ^ s % 2 ^ c = x / 2 ^ s % 2 ^ c := by
  have ha : (2 : Nat) ^ a = 2 ^ s * 2 ^ (a - s) := by
    rw [← Nat.pow_add]
    congr 1
    omega
  rw [ha, Nat.mod_mul_right_div_self]
  rw [Nat.mod_mod_of_dvd _ (Nat.pow_dvd_pow 2 (by omega))]

theorem split_bits (x s a c : Nat) :
    x / 2 ^ s % 2 ^ (a + c) = (x / 2 ^ (s + c) % 2 ^ a) * 2 ^ c + x / 2 ^ s % 2 ^ c := by
  have h1 : x / 2 ^ (s + c) = x / 2 ^ s / 2 ^ c := by
    rw [Nat.div_div_eq_div_mul, Nat.pow_add]
  rw [h1]
  generalize x / 2 ^ s = q
  have h2 : (2 : Nat) ^ (a + c) = 2 ^ c * 2 ^ a := by
    rw [← Nat.pow_add]
    congr 1
    omega
  rw [h2, Nat.mod_mul]
  ring

theorem add_low_div (T a D : Nat) (hD : 0 < D) (h : T % D + a < D) :
    (T + a) / D = T / D := by
  conv_lhs => rw [← Nat.div_add_mod T D, Nat.add_assoc]
  rw [Nat.mul_add_div hD, Nat.div_eq_of_lt h, Nat.add_zero]

theorem add_mul_pow_div (T m d e : Nat) (hed : d ≤ e) :
    (T + m * 2 ^ e) / 2 ^ d = T / 2 ^ d + m * 2 ^ (e - d) := by
  have h : m * 2 ^ e = m * 2 ^ (e - d) * 2 ^ d := by
    rw [Nat.mul_assoc, ← Nat.pow_add]
    congr 2
    omega
  rw [h, Nat.add_mul_div_right _ _ (Nat.pos_pow_of_pos d (by norm_num))]

theorem getD_set_self2 (l : List Nat) (i v : Nat) (hi : i < l.length) :
    (l.set i v).getD i 0 = v := by
  induction l generalizing i with
  | nil => simp at hi
  | cons x xs ih =>
    cases i with
    | zero => rfl
    | succ j =>
      simp only [List.length_cons] at hi
      simpa [List.set, List.getD] using ih j (by omega)

theorem getD_set_ne2 (l : List Nat) (i j v : Nat) (hne : i ≠ j) :
    (l.set i v).getD j 0 = l.getD j 0 := by
  induction l generalizing i j with
  | nil => rfl
  | cons x xs ih =>
    cases i with
    | zero =>
      cases j with
      | zero => exact absurd rfl hne
      | succ j2 => rfl
    | succ i2 =>
      cases j with
      | zero => rfl
      | succ j2 =>
        simpa [List.set, List.getD] using ih i2 j2 (by omega)

/-- Byte view of the stream: buffers are read as one big-endian number `T`
left-justified in `L` bytes; byte `j` is bits `[8j, 8j+8)` from the top. -/
def ByteSpec (L T j : Nat) : Nat := T / 2 ^ (8 * (L - 1 - j)) % 256

def BufSpec (L T : Nat) (bytes : List Nat) : Prop :=
  bytes.length = L ∧ ∀ j, j < L → bytes.getD j 0 = ByteSpec L T j

theorem byte_of_mult (X d : Nat) (h : X % 2 ^ (d + 8) = 0) : X / 2 ^ d % 256 = 0 := by
  obtain ⟨u, hu⟩ := Nat.dvd_of_mod_eq_zero h
  subst hu
  rw [Nat.pow_add, Nat.mul_assoc, Nat.mul_div_cancel_left _ (Nat.pos_pow_of_pos d (by norm_num))]
  omega

theorem div_mod_unchanged (T a d m : Nat) (hm : m ≤ d) (hT : T % 2 ^ m = 0) (ha : a < 2 ^ m) :
    (T + a) / 2 ^ d = T / 2 ^ d := by
  apply add_low_div _ _ _ (Nat.pos_pow_of_pos d (by norm_num))
  obtain ⟨u, hu⟩ := Nat.dvd_of_mod_eq_zero hT
  subst hu
  have hd : (2 : Nat) ^ d = 2 ^ m * 2 ^ (d - m) := by
    rw [← Nat.pow_add]; congr 1; omega
  rw [hd, Nat.mul_mod_mul_left]
  have h1 : u % 2 ^ (d - m) ≤ 2 ^ (d - m) - 1 :=
    Nat.le_sub_one_of_lt (Nat.mod_lt _ (Nat.pos_pow_of_pos _ (by norm_num)))
  have h2 : 2 ^ m * (u % 2 ^ (d - m)) ≤ 2 ^ m * (2 ^ (d - m) - 1) :=
    Nat.mul_le_mul_left _ h1
  have h3 : 2 ^ m * (2 ^ (d - m) - 1) = 2 ^ m * 2 ^ (d - m) - 2 ^ m := Nat.mul_sub_one _ _
  have h4 : (0:Nat) < 2 ^ m := Nat.pos_pow_of_pos _ (by norm_num)
  have h5 : (0:Nat) < 2 ^ (d - m) := Nat.pos_pow_of_pos _ (by norm_num)
  have h6 : 2 ^ m ≤ 2 ^ m * 2 ^ (d - m) := Nat.le_mul_of_pos_right _ h5
  omega

theorem mult_lt_add (T a k n : Nat) (hk : k ≤ n) (hT0 : T % 2 ^ k = 0)
    (hTlt : T < 2 ^ n) (ha : a < 2 ^ k) : T + a < 2 ^ n := by
  obtain ⟨u, hu⟩ := Nat.dvd_of_mod_eq_zero hT0
  subst hu
  have hn : (2 : Nat) ^ n = 2 ^ k * 2 ^ (n - k) := by
    rw [← Nat.pow_add]; congr 1; omega
  rw [hn] at hTlt ⊢
  have h4 : (0:Nat) < 2 ^ k := Nat.pos_pow_of_pos _ (by norm_num)
  have hu2 : u < 2 ^ (n - k) := by
    by_contra hc
    push_neg at hc
    exact absurd (Nat.mul_le_mul_left (2^k) hc) (by omega)
  have : 2 ^ k * u + 2 ^ k ≤ 2 ^ k * 2 ^ (n - k) := by
    calc 2 ^ k * u + 2 ^ k = 2 ^ k * (u + 1) := by ring
      _ ≤ 2 ^ k * 2 ^ (n - k) := Nat.mul_le_mul_left _ (by omega)
  omega

theorem bufspec_byte_zero (L T j : Nat) (hT0 : T % 2 ^ (8 * L - 8 * j) = 0)
    (hj : j < L) : ByteSpec L T j = 0 := by
  apply byte_of_mult
  have hd : 8 * (L - 1 - j) + 8 ≤ 8 * L - 8 * j := by omega
  obtain ⟨u, hu⟩ := Nat.dvd_of_mod_eq_zero hT0
  subst hu
  have : (2:Nat) ^ (8 * L - 8 * j) = 2 ^ (8 * (L - 1 - j) + 8) * 2 ^ (8 * L - 8 * j - (8 * (L - 1 - j) + 8)) := by
    rw [← Nat.pow_add]; congr 1; omega
  rw [this, Nat.mul_assoc, Nat.mul_mod_right]

theorem pow_dvd_sub (a b : Nat) (h : b ≤ a) : (2:Nat) ^ b ∣ 2 ^ a :=
  Nat.pow_dvd_pow 2 h

theorem bufspec_set_aligned (L T Q w c : Nat) (bytes : List Nat)
    (hB : BufSpec L T bytes) (hq : Q % 8 = 0) (hc1 : 0 < c) (hc8 : c ≤ 8)
    (hQL : Q + c ≤ 8 * L) (hT0 : T % 2 ^ (8 * L - Q) = 0) (hTlt : T < 2 ^ (8 * L))
    (hw : w < 2 ^ c) :
    BufSpec L (T + w * 2 ^ (8 * L - Q - c)) (bytes.set (Q / 8) (w * 2 ^ (8 - c)))
    ∧ (T + w * 2 ^ (8 * L - Q - c)) % 2 ^ (8 * L - (Q + c)) = 0
    ∧ T + w * 2 ^ (8 * L - Q - c) < 2 ^ (8 * L) := by
  obtain ⟨hlen, hbytes⟩ := hB
  have hQ8 : Q / 8 * 8 = Q := by omega
  have hiL : Q / 8 < L := by omega
  have hdT : (2:Nat) ^ (8 * L - Q) ∣ T := Nat.dvd_of_mod_eq_zero hT0
  have haw : w * 2 ^ (8 * L - Q - c) < 2 ^ (8 * L - Q) := by
    calc w * 2 ^ (8 * L - Q - c) < 2 ^ c * 2 ^ (8 * L - Q - c) :=
          mul_lt_mul_of_pos_right hw (by positivity)
      _ = 2 ^ (8 * L - Q) := by rw [← Nat.pow_add]; congr 1; omega
  refine ⟨⟨by simpa using hlen, ?_⟩, ?_, ?_⟩
  · intro j hj
    by_cases hji : j = Q / 8
    · subst hji
      rw [getD_set_self2 _ _ _ (by omega)]
      unfold ByteSpec
      have hd : 8 * (L - 1 - Q / 8) = 8 * L - Q - 8 := by omega
      rw [hd]
      rw [show 8 * L - Q - c = (8 * L - Q - 8) + (8 - c) by omega]
      rw [add_mul_pow_div _ _ _ _ (by omega)]
      rw [show (8 * L - Q - 8) + (8 - c) - (8 * L - Q - 8) = 8 - c by omega]
      have hz : T / 2 ^ (8 * L - Q - 8) % 256 = 0 := by
        apply byte_of_mult
        rw [show 8 * L - Q - 8 + 8 = 8 * L - Q by omega]
        exact hT0
      obtain ⟨hi, hhi⟩ : ∃ hi, T / 2 ^ (8 * L - Q - 8) = 256 * hi := by
        refine ⟨T / 2 ^ (8 * L - Q - 8) / 256, ?_⟩
        have := Nat.div_add_mod (T / 2 ^ (8 * L - Q - 8)) 256
        omega
      rw [hhi]
      have hwlt : w * 2 ^ (8 - c) < 256 := by
        calc w * 2 ^ (8 - c) < 2 ^ c * 2 ^ (8 - c) :=
              mul_lt_mul_of_pos_right hw (by positivity)
          _ = 256 := by rw [← Nat.pow_add]; rw [show c + (8 - c) = 8 by omega]
      rw [Nat.add_comm (256 * hi), Nat.add_mul_mod_self_left, Nat.mod_eq_of_lt hwlt]
    · rw [getD_set_ne2 _ _ _ _ (fun h => hji h.symm), hbytes j hj]
      unfold ByteSpec
      rcases Nat.lt_or_ge j (Q / 8) with hlt | hge
      · congr 1
        rw [div_mod_unchanged _ _ _ (8 * L - Q) (by omega) hT0 haw]
      · have hgt : j > Q / 8 := by omega
        have hdj : (2:Nat) ^ (8 * L - 8 * j) ∣ T + w * 2 ^ (8 * L - Q - c) :=
          Nat.dvd_add (dvd_trans (pow_dvd_sub _ _ (by omega)) hdT)
            (Dvd.dvd.mul_left (pow_dvd_sub _ _ (by omega)) w)
        have hdj0 : (2:Nat) ^ (8 * L - 8 * j) ∣ T :=
          dvd_trans (pow_dvd_sub _ _ (by omega)) hdT
        have h1 := bufspec_byte_zero L T j (Nat.mod_eq_zero_of_dvd hdj0) hj
        have h2 := bufspec_byte_zero L (T + w * 2 ^ (8 * L - Q - c)) j
          (Nat.mod_eq_zero_of_dvd hdj) hj
        unfold ByteSpec at h1 h2
        omega
  · apply Nat.mod_eq_zero_of_dvd
    rw [show 8 * L - (Q + c) = 8 * L - Q - c by omega]
    exact Nat.dvd_add (dvd_trans (pow_dvd_sub _ _ (by omega)) hdT) (Dvd.dvd.mul_left (dvd_refl _) w)
  · exact mult_lt_add _ _ (8 * L - Q) _ (by omega) hT0 hTlt haw

theorem bufspec_set_partial (L T Q w c : Nat) (bytes : List Nat)
    (hB : BufSpec L T bytes) (hr : 0 < Q % 8) (hc1 : 0 < c) (hcav : c ≤ 8 - Q % 8)
    (hQL : Q + c ≤ 8 * L) (hT0 : T % 2 ^ (8 * L - Q) = 0) (hTlt : T < 2 ^ (8 * L))
    (hw : w < 2 ^ c) :
    BufSpec L (T + w * 2 ^ (8 * L - Q - c))
      (bytes.set (Q / 8) (bytes.getD (Q / 8) 0 ||| w * 2 ^ (8 - Q % 8 - c)))
    ∧ (T + w * 2 ^ (8 * L - Q - c)) % 2 ^ (8 * L - (Q + c)) = 0
    ∧ T + w * 2 ^ (8 * L - Q - c) < 2 ^ (8 * L) := by
  obtain ⟨hlen, hbytes⟩ := hB
  have hQ8 : Q / 8 * 8 = Q - Q % 8 := by omega
  have hiL : Q / 8 < L := by omega
  have hdT : (2:Nat) ^ (8 * L - Q) ∣ T := Nat.dvd_of_mod_eq_zero hT0
  have haw : w * 2 ^ (8 * L - Q - c) < 2 ^ (8 * L - Q) := by
    calc w * 2 ^ (8 * L - Q - c) < 2 ^ c * 2 ^ (8 * L - Q - c) :=
          mul_lt_mul_of_pos_right hw (by positivity)
      _ = 2 ^ (8 * L - Q) := by rw [← Nat.pow_add]; congr 1; omega
  have hdb : 8 * (L - 1 - Q / 8) = 8 * L - (Q - Q % 8) - 8 := by omega
  obtain ⟨t, ht⟩ := hdT
  have hsp : (2:Nat) ^ (8 * L - Q) = 2 ^ (8 * L - (Q - Q % 8) - 8) * 2 ^ (8 - Q % 8) := by
    rw [← Nat.pow_add]; congr 1; omega
  have hBdiv : T / 2 ^ (8 * L - (Q - Q % 8) - 8) = 2 ^ (8 - Q % 8) * t := by
    rw [ht, hsp, Nat.mul_assoc, Nat.mul_div_cancel_left _ (by positivity)]
  have h256 : (256:Nat) = 2 ^ (8 - Q % 8) * 2 ^ (Q % 8) := by
    rw [← Nat.pow_add]; rw [show 8 - Q % 8 + Q % 8 = 8 by omega]
  have hByte : bytes.getD (Q / 8) 0 = 2 ^ (8 - Q % 8) * (t % 2 ^ (Q % 8)) := by
    rw [hbytes _ hiL]
    unfold ByteSpec
    rw [hdb, hBdiv, h256, Nat.mul_mod_mul_left]
  have hBle : bytes.getD (Q / 8) 0 ≤ 256 - 2 ^ (8 - Q % 8) := by
    rw [hByte]
    calc 2 ^ (8 - Q % 8) * (t % 2 ^ (Q % 8)) ≤ 2 ^ (8 - Q % 8) * (2 ^ (Q % 8) - 1) :=
          Nat.mul_le_mul_left _ (Nat.le_sub_one_of_lt (Nat.mod_lt _ (by positivity)))
      _ = 2 ^ (8 - Q % 8) * 2 ^ (Q % 8) - 2 ^ (8 - Q % 8) := by
          rw [Nat.mul_sub, Nat.mul_one]
      _ = 256 - 2 ^ (8 - Q % 8) := by rw [← h256]
  have hwsm : w * 2 ^ (8 - Q % 8 - c) < 2 ^ (8 - Q % 8) := by
    calc w * 2 ^ (8 - Q % 8 - c) < 2 ^ c * 2 ^ (8 - Q % 8 - c) :=
          mul_lt_mul_of_pos_right hw (by positivity)
      _ = 2 ^ (8 - Q % 8) := by rw [← Nat.pow_add]; congr 1; omega
  refine ⟨⟨by simpa using hlen, ?_⟩, ?_, ?_⟩
  · intro j hj
    by_cases hji : j = Q / 8
    · subst hji
      rw [getD_set_self2 _ _ _ (by omega)]
      have hor : bytes.getD (Q / 8) 0 ||| w * 2 ^ (8 - Q % 8 - c)
          = bytes.getD (Q / 8) 0 + w * 2 ^ (8 - Q % 8 - c) := by
        apply lor_eq_add _ _ (8 - Q % 8) _ hwsm
        rw [hByte, Nat.mul_comm, Nat.mul_mod_left]
      rw [hor]
      unfold ByteSpec
      rw [hdb]
      rw [show 8 * L - Q - c = (8 * L - (Q - Q % 8) - 8) + (8 - Q % 8 - c) by omega]
      rw [add_mul_pow_div _ _ _ _ (by omega)]
      rw [show (8 * L - (Q - Q % 8) - 8) + (8 - Q % 8 - c) - (8 * L - (Q - Q % 8) - 8)
        = 8 - Q % 8 - c by omega]
      have hsum : bytes.getD (Q / 8) 0 + w * 2 ^ (8 - Q % 8 - c) < 256 := by
        have hp : (0:Nat) < 2 ^ (8 - Q % 8) := by positivity
        have hn256 : (2:Nat) ^ (8 - Q % 8) ≤ 256 :=
          le_trans (Nat.pow_le_pow_right (by norm_num) (by omega : 8 - Q % 8 ≤ 8)) (by norm_num)
        omega
      obtain ⟨hi2, hhi2⟩ : ∃ hi2, T / 2 ^ (8 * L - (Q - Q % 8) - 8)
          = 256 * hi2 + bytes.getD (Q / 8) 0 := by
        refine ⟨T / 2 ^ (8 * L - (Q - Q % 8) - 8) / 256, ?_⟩
        have hmod := Nat.div_add_mod (T / 2 ^ (8 * L - (Q - Q % 8) - 8)) 256
        have hTd : T / 2 ^ (8 * L - (Q - Q % 8) - 8) % 256 = bytes.getD (Q / 8) 0 := by
          rw [hbytes _ hiL]
          unfold ByteSpec
          rw [hdb]
        omega
      rw [hhi2, Nat.add_assoc, Nat.add_comm (256 * hi2), Nat.add_mul_mod_self_left,
        Nat.mod_eq_of_lt hsum]
    · rw [getD_set_ne2 _ _ _ _ (fun h => hji h.symm), hbytes j hj]
      unfold ByteSpec
      rcases Nat.lt_or_ge j (Q / 8) with hlt | hge
      · congr 1
        rw [div_mod_unchanged _ _ _ (8 * L - Q) (by omega) hT0 haw]
      · have hgt : j > Q / 8 := by omega
        have h8j : 8 * j ≥ Q + c := by omega
        have hdj : (2:Nat) ^ (8 * L - 8 * j) ∣ T + w * 2 ^ (8 * L - Q - c) :=
          Nat.dvd_add (dvd_trans (pow_dvd_sub _ _ (by omega)) (Nat.dvd_of_mod_eq_zero hT0))
            (Dvd.dvd.mul_left (pow_dvd_sub _ _ (by omega)) w)
        have hdj0 : (2:Nat) ^ (8 * L - 8 * j) ∣ T :=
          dvd_trans (pow_dvd_sub _ _ (by omega)) (Nat.dvd_of_mod_eq_zero hT0)
        have h1 := bufspec_byte_zero L T j (Nat.mod_eq_zero_of_dvd hdj0) hj
        have h2 := bufspec_byte_zero L (T + w * 2 ^ (8 * L - Q - c)) j
          (Nat.mod_eq_zero_of_dvd hdj) hj
        unfold ByteSpec at h1 h2
        omega
  · apply Nat.mod_eq_zero_of_dvd
    rw [show 8 * L - (Q + c) = 8 * L - Q - c by omega]
    exact Nat.dvd_add (dvd_trans (pow_dvd_sub _ _ (by omega)) (Nat.dvd_of_mod_eq_zero hT0))
      (Dvd.dvd.mul_left (dvd_refl _) w)
  · exact mult_lt_add _ _ (8 * L - Q) _ (by omega) hT0 hTlt haw

/-- Packer state invariant: the packer sits at bit position `P` of an `L`-byte
buffer whose contents are the big-endian stream `T` (left-justified). -/
def PackInv (L T P : Nat) (st : BitPacker) : Prop :=
  st.byte_index = P / 8 ∧ st.byte_bit_used = P % 8 ∧ P ≤ 8 * L ∧
  BufSpec L T st.bytes ∧ T % 2 ^ (8 * L - P) = 0 ∧ T < 2 ^ (8 * L)

theorem chunk_merge (v ρ m Q L : Nat) (hρ : ρ = m % 8) (h8 : 8 ≤ m) (hQm : Q + m ≤ 8 * L) :
    (v / 2 ^ (m - 8) % 2 ^ 8) * 2 ^ (8 * L - Q - 8)
      + (v / 2 ^ ρ % 2 ^ (m - 8 - ρ)) * 2 ^ (8 * L - (Q + 8) - (m - 8 - ρ))
    = (v / 2 ^ ρ % 2 ^ (m - ρ)) * 2 ^ (8 * L - Q - (m - ρ)) := by
  rw [show m - ρ = 8 + (m - 8 - ρ) by omega]
  rw [split_bits v ρ 8 (m - 8 - ρ)]
  rw [show ρ + (m - 8 - ρ) = m - 8 by omega]
  rw [Nat.add_mul, Nat.mul_assoc, ← Nat.pow_add]
  rw [show m - 8 - ρ + (8 * L - Q - (8 + (m - 8 - ρ))) = 8 * L - Q - 8 by omega]
  rw [show 8 * L - Q - (8 + (m - 8 - ρ)) = 8 * L - (Q + 8) - (m - 8 - ρ) by omega]

theorem packWholeBytes_ge8 (value m : Nat) (st : BitPacker) (h : 8 ≤ m) :
    packWholeBytes value m st = packWholeBytes value (m - 8)
      { st with
        bytes := st.bytes.set st.byte_index (u8 (value >>> (m - 8)))
        byte_index := st.byte_index + 1 } := by
  obtain ⟨k, rfl⟩ : ∃ k, m = k + 8 := ⟨m - 8, by omega⟩
  rfl

theorem packWholeBytes_lt8 (value m : Nat) (st : BitPacker) (h : m < 8) :
    packWholeBytes value m st = st := by
  interval_cases m <;> rfl

theorem unpackWholeBytes_ge8 (value m : Nat) (st : BitUnpacker) (h : 8 ≤ m) :
    unpackWholeBytes value m st
      = unpackWholeBytes ((value <<< 8) ||| st.bytes.getD st.byte_index 0) (m - 8)
        { st with byte_index := st.byte_index + 1 } := by
  obtain ⟨k, rfl⟩ : ∃ k, m = k + 8 := ⟨m - 8, by omega⟩
  rfl

theorem unpackWholeBytes_lt8 (value m : Nat) (st : BitUnpacker) (h : m < 8) :
    unpackWholeBytes value m st = (value, st) := by
  interval_cases m <;> rfl

theorem packWhole_inv (L v : Nat) : ∀ m T Q st, Q % 8 = 0 → Q + m ≤ 8 * L →
    PackInv L T Q st →
    PackInv L (T + (v / 2 ^ (m % 8) % 2 ^ (m - m % 8)) * 2 ^ (8 * L - Q - (m - m % 8)))
      (Q + (m - m % 8)) (packWholeBytes v m st) := by
  intro m
  induction m using Nat.strong_induction_on with
  | _ m ih =>
    intro T Q st hq hQm hinv
    obtain ⟨hbi, hbu, hP8, hbuf, hT0, hTlt⟩ := hinv
    by_cases h8 : 8 ≤ m
    · rw [packWholeBytes_ge8 _ _ _ h8]
      have hw8 : u8 (v >>> (m - 8)) = v / 2 ^ (m - 8) % 2 ^ 8 := by
        rw [u8, Nat.shiftRight_eq_div_pow]
        norm_num
      have hstep := bufspec_set_aligned L T Q (v / 2 ^ (m - 8) % 2 ^ 8) 8 st.bytes hbuf hq
        (by norm_num) (by norm_num) (by omega) hT0 hTlt (Nat.mod_lt _ (by norm_num))
      obtain ⟨hbuf1, hT01, hTlt1⟩ := hstep
      simp only [show (8:Nat) - 8 = 0 from rfl, Nat.pow_zero, Nat.mul_one] at hbuf1
      have hinv2 : PackInv L (T + v / 2 ^ (m - 8) % 2 ^ 8 * 2 ^ (8 * L - Q - 8)) (Q + 8)
          { st with
            bytes := st.bytes.set st.byte_index (u8 (v >>> (m - 8)))
            byte_index := st.byte_index + 1 } := by
        refine ⟨?_, ?_, by omega, ?_, hT01, hTlt1⟩
        · simp only [hbi]
          omega
        · simp only [hbu]
          omega
        · rw [hbi, hw8]
          exact hbuf1
      have harg := ih (m - 8) (by omega)
        (T + v / 2 ^ (m - 8) % 2 ^ 8 * 2 ^ (8 * L - Q - 8)) (Q + 8) _
        (by omega) (by omega) hinv2
      have hmm : m % 8 = (m - 8) % 8 := by omega
      rw [← hmm] at harg
      have hTm : T + (v / 2 ^ (m % 8) % 2 ^ (m - m % 8)) * 2 ^ (8 * L - Q - (m - m % 8))
          = T + v / 2 ^ (m - 8) % 2 ^ 8 * 2 ^ (8 * L - Q - 8)
            + v / 2 ^ (m % 8) % 2 ^ (m - 8 - m % 8) * 2 ^ (8 * L - (Q + 8) - (m - 8 - m % 8)) := by
        rw [Nat.add_assoc]
        congr 1
        exact (chunk_merge v (m % 8) m Q L rfl h8 hQm).symm
      rw [hTm, show Q + (m - m % 8) = Q + 8 + (m - 8 - m % 8) by omega]
      exact harg
    · rw [packWholeBytes_lt8 _ _ _ (by omega)]
      have hm8 : m % 8 = m := by omega
      rw [hm8]
      simp only [Nat.sub_self, Nat.pow_zero, Nat.mul_zero, Nat.add_zero]
      have hz : v / 2 ^ m % 1 = 0 := Nat.mod_one _
      rw [hz, Nat.zero_mul, Nat.add_zero]
      exact ⟨hbi, hbu, by omega, hbuf, hT0, hTlt⟩

theorem packRest_inv (L v m T Q : Nat) (st : BitPacker) (hq : Q % 8 = 0)
    (hQm : Q + m ≤ 8 * L) (hinv : PackInv L T Q st) :
    PackInv L (T + (v % 2 ^ m) * 2 ^ (8 * L - Q - m)) (Q + m) (packRest v m st) := by
  have hW := packWhole_inv L v m T Q st hq hQm hinv
  have hTfin : T + (v / 2 ^ (m % 8) % 2 ^ (m - m % 8)) * 2 ^ (8 * L - Q - (m - m % 8))
      + (v % 2 ^ (m % 8)) * 2 ^ (8 * L - (Q + (m - m % 8)) - m % 8)
      = T + (v % 2 ^ m) * 2 ^ (8 * L - Q - m) := by
    rw [Nat.add_assoc]
    congr 1
    have hsplit : v % 2 ^ m = (v / 2 ^ (m % 8) % 2 ^ (m - m % 8)) * 2 ^ (m % 8)
        + v % 2 ^ (m % 8) := by
      have h := split_bits v 0 (m - m % 8) (m % 8)
      simp only [Nat.pow_zero, Nat.div_one, Nat.zero_add] at h
      rw [show m - m % 8 + m % 8 = m by omega] at h
      exact h
    rw [hsplit, Nat.add_mul, Nat.mul_assoc, ← Nat.pow_add]
    congr 2
    · congr 1
      omega
    · congr 1
      omega
  unfold packRest
  by_cases hr : m % 8 > 0
  · simp only [hr, if_true]
    obtain ⟨hbi1, hbu1, hP81, hbuf1, hT01, hTlt1⟩ := hW
    have hq1 : (Q + (m - m % 8)) % 8 = 0 := by omega
    have hw : u8 (v <<< (8 - m % 8)) = (v % 2 ^ (m % 8)) * 2 ^ (8 - m % 8) := by
      rw [u8, Nat.shiftLeft_eq]
      rw [show (256:Nat) = 2 ^ (m % 8) * 2 ^ (8 - m % 8) from by
        rw [← Nat.pow_add]; rw [show m % 8 + (8 - m % 8) = 8 by omega]]
      exact Nat.mul_mod_mul_right _ _ _
    have hstep := bufspec_set_aligned L
      (T + (v / 2 ^ (m % 8) % 2 ^ (m - m % 8)) * 2 ^ (8 * L - Q - (m - m % 8)))
      (Q + (m - m % 8)) (v % 2 ^ (m % 8)) (m % 8)
      (packWholeBytes v m st).bytes hbuf1 hq1 (by omega) (by omega) (by omega) hT01 hTlt1
      (Nat.mod_lt _ (by positivity))
    obtain ⟨hbuf2, hT02, hTlt2⟩ := hstep
    rw [hTfin] at hbuf2 hT02 hTlt2
    refine ⟨?_, ?_, by omega, ?_, ?_, hTlt2⟩
    · show (packWholeBytes v m st).byte_index = (Q + m) / 8
      simp only [hbi1]
      omega
    · show m % 8 = (Q + m) % 8
      omega
    · rw [hbi1, hw]
      exact hbuf2
    · rw [show 8 * L - (Q + m) = 8 * L - (Q + (m - m % 8) + m % 8) by omega]
      exact hT02
  · simp only [hr, if_false]
    have hm : m % 8 = 0 := by omega
    rw [hm, Nat.pow_zero, Nat.div_one, Nat.sub_zero] at hW
    exact hW

theorem pack_value_inv (L T P v b : Nat) (st : BitPacker) (hv : v < 2 ^ b)
    (hPb : P + b ≤ 8 * L) (hinv : PackInv L T P st) :
    PackInv L (T + v * 2 ^ (8 * L - P - b)) (P + b) (st.pack_value v b) := by
  have hbi := hinv.1
  have hbu := hinv.2.1
  simp only [BitPacker.pack_value, hbu, hbi]
  by_cases hr : P % 8 > 0
  · simp only [hr, if_true]
    have hmask : low_bit_to_byte_mask (8 - P % 8) = 2 ^ (8 - P % 8) - 1 := by
      unfold low_bit_to_byte_mask
      rw [if_neg (by omega), Nat.shiftLeft_eq, Nat.one_mul]
    by_cases hblt : b < 8 - P % 8
    · simp only [hblt, if_true, hmask]
      by_cases hb0 : b = 0
      · subst hb0
        have hv0 : v = 0 := by omega
        subst hv0
        simp only [Nat.zero_shiftLeft, u8, Nat.zero_mod, Nat.zero_and, Nat.or_zero,
          Nat.zero_mul, Nat.add_zero]
        obtain ⟨hbi0, hbu0, hP80, ⟨hlen0, hbytes0⟩, hT00, hTlt0⟩ := hinv
        refine ⟨rfl, rfl, by omega, ⟨by simpa using hlen0, ?_⟩, hT00, hTlt0⟩
        intro j hj
        by_cases hji : j = P / 8
        · subst hji
          rw [getD_set_self2 _ _ _ (by omega)]
          exact hbytes0 _ hj
        · rw [getD_set_ne2 _ _ _ _ (fun h => hji h.symm)]
          exact hbytes0 _ hj
      have hwv : u8 (v <<< (8 - P % 8 - b)) &&& (2 ^ (8 - P % 8) - 1)
          = v * 2 ^ (8 - P % 8 - b) := by
        rw [u8, Nat.shiftLeft_eq, and_mask_eq_mod]
        rw [Nat.mod_mod_of_dvd _ (Nat.pow_dvd_pow 2 (by omega : 8 - P % 8 ≤ 8))]
        apply Nat.mod_eq_of_lt
        calc v * 2 ^ (8 - P % 8 - b) < 2 ^ b * 2 ^ (8 - P % 8 - b) :=
              mul_lt_mul_of_pos_right hv (by positivity)
          _ = 2 ^ (8 - P % 8) := by rw [← Nat.pow_add]; congr 1; omega
      rw [hwv]
      have hstep := bufspec_set_partial L T P v b st.bytes hinv.2.2.2.1 hr (by omega)
        (by omega) hPb hinv.2.2.2.2.1 hinv.2.2.2.2.2 hv
      refine ⟨?_, ?_, by omega, hstep.1, ?_, hstep.2.2⟩
      · show P / 8 = (P + b) / 8
        omega
      · show P % 8 + b = (P + b) % 8
        omega
      · exact hstep.2.1
    · simp only [hblt, if_false, hmask]
      by_cases hb0 : b = 0
      · omega
      have hq : v / 2 ^ (b - (8 - P % 8)) < 2 ^ (8 - P % 8) := by
        apply Nat.div_lt_of_lt_mul
        calc v < 2 ^ b := hv
          _ = 2 ^ (b - (8 - P % 8)) * 2 ^ (8 - P % 8) := by
              rw [← Nat.pow_add]; congr 1; omega
      have hwv : u8 (v >>> (b - (8 - P % 8))) &&& (2 ^ (8 - P % 8) - 1)
          = v / 2 ^ (b - (8 - P % 8)) := by
        rw [u8, Nat.shiftRight_eq_div_pow, and_mask_eq_mod]
        rw [Nat.mod_mod_of_dvd _ (Nat.pow_dvd_pow 2 (by omega : 8 - P % 8 ≤ 8))]
        exact Nat.mod_eq_of_lt hq
      rw [hwv]
      have hstep := bufspec_set_partial L T P (v / 2 ^ (b - (8 - P % 8))) (8 - P % 8)
        st.bytes hinv.2.2.2.1 hr (by omega) (by omega) (by omega)
        hinv.2.2.2.2.1 hinv.2.2.2.2.2 hq
      simp only [Nat.sub_self, Nat.pow_zero, Nat.mul_one] at hstep
      have hinv1 : PackInv L
          (T + v / 2 ^ (b - (8 - P % 8)) * 2 ^ (8 * L - P - (8 - P % 8)))
          (P + (8 - P % 8))
          { st with
            bytes := st.bytes.set (P / 8)
              (st.bytes.getD (P / 8) 0 ||| v / 2 ^ (b - (8 - P % 8)))
            byte_index := P / 8 + 1
            byte_bit_used := 0 } := by
        refine ⟨?_, ?_, by omega, hstep.1, ?_, hstep.2.2⟩
        · show P / 8 + 1 = (P + (8 - P % 8)) / 8
          omega
        · show 0 = (P + (8 - P % 8)) % 8
          omega
        · exact hstep.2.1
      have hrest := packRest_inv L v (b - (8 - P % 8))
        (T + v / 2 ^ (b - (8 - P % 8)) * 2 ^ (8 * L - P - (8 - P % 8)))
        (P + (8 - P % 8)) _ (by omega) (by omega) hinv1
      have hTfin : T + v / 2 ^ (b - (8 - P % 8)) * 2 ^ (8 * L - P - (8 - P % 8))
          + (v % 2 ^ (b - (8 - P % 8)))
            * 2 ^ (8 * L - (P + (8 - P % 8)) - (b - (8 - P % 8)))
          = T + v * 2 ^ (8 * L - P - b) := by
        rw [Nat.add_assoc]
        congr 1
        have hdm : v = v / 2 ^ (b - (8 - P % 8)) * 2 ^ (b - (8 - P % 8))
            + v % 2 ^ (b - (8 - P % 8)) := by
          rw [Nat.mul_comm]
          exact (Nat.div_add_mod v _).symm
        conv_rhs => rw [hdm]
        rw [Nat.add_mul, Nat.mul_assoc, ← Nat.pow_add]
        congr 2
        · congr 1
          omega
        · congr 1
          omega
      rw [hTfin] at hrest
      rw [show P + (8 - P % 8) + (b - (8 - P % 8)) = P + b by omega] at hrest
      exact hrest
  · simp only [hr, if_false]
    have hrest := packRest_inv L v b T P st (by omega) hPb hinv
    rw [Nat.mod_eq_of_lt hv] at hrest
    exact hrest

/-- Unpacker position invariant against a fixed buffer holding stream `T`. -/
def UnpackInv (L T P : Nat) (st : BitUnpacker) : Prop :=
  st.byte_index = P / 8 ∧ st.byte_bit_used = P % 8 ∧ P ≤ 8 * L ∧
  BufSpec L T st.bytes ∧ T < 2 ^ (8 * L)

theorem mask_le8 (c : Nat) (h : c ≤ 8) : low_bit_to_byte_mask c = 2 ^ c - 1 := by
  unfold low_bit_to_byte_mask
  by_cases h8 : c ≥ 8
  · rw [if_pos h8]
    rw [show c = 8 by omega]
    norm_num
  · rw [if_neg h8, Nat.shiftLeft_eq, Nat.one_mul]

theorem byte_read (L T Q : Nat) (st : BitUnpacker) (hq : Q % 8 = 0)
    (hQL : Q + 8 ≤ 8 * L) (hbuf : BufSpec L T st.bytes) (hbi : st.byte_index = Q / 8) :
    st.bytes.getD st.byte_index 0 = T / 2 ^ (8 * L - Q - 8) % 2 ^ 8 := by
  rw [hbi, hbuf.2 _ (by omega)]
  unfold ByteSpec
  rw [show 8 * (L - 1 - Q / 8) = 8 * L - Q - 8 by omega]
  norm_num

theorem unpackWhole_spec (L T : Nat) : ∀ m V Q st, Q % 8 = 0 → Q + m ≤ 8 * L →
    UnpackInv L T Q st →
    unpackWholeBytes V m st
      = (V * 2 ^ (m - m % 8) + T / 2 ^ (8 * L - Q - (m - m % 8)) % 2 ^ (m - m % 8),
         { st with byte_index := (Q + (m - m % 8)) / 8 }) := by
  intro m
  induction m using Nat.strong_induction_on with
  | _ m ih =>
    intro V Q st hq hQm hinv
    obtain ⟨hbi, hbu, hP8, hbuf, hTlt⟩ := hinv
    by_cases h8 : 8 ≤ m
    · rw [unpackWholeBytes_ge8 _ _ _ h8]
      have hbyte := byte_read L T Q st hq (by omega) hbuf hbi
      have hlor : (V <<< 8) ||| st.bytes.getD st.byte_index 0
          = V * 2 ^ 8 + T / 2 ^ (8 * L - Q - 8) % 2 ^ 8 := by
        rw [Nat.shiftLeft_eq, hbyte]
        exact lor_mul_pow _ _ (Nat.mod_lt _ (by norm_num))
      rw [hlor]
      have hinv1 : UnpackInv L T (Q + 8) { st with byte_index := st.byte_index + 1 } := by
        refine ⟨?_, ?_, by omega, hbuf, hTlt⟩
        · show st.byte_index + 1 = (Q + 8) / 8
          omega
        · show st.byte_bit_used = (Q + 8) % 8
          rw [hbu]
          omega
      have harg := ih (m - 8) (by omega)
        (V * 2 ^ 8 + T / 2 ^ (8 * L - Q - 8) % 2 ^ 8) (Q + 8) _ (by omega) (by omega) hinv1
      rw [harg]
      have hmm : (m - 8) % 8 = m % 8 := by omega
      simp only [Prod.mk.injEq]
      refine ⟨?_, ?_⟩
      · rw [hmm]
        rw [Nat.add_mul, Nat.mul_assoc, ← Nat.pow_add]
        rw [show 8 + (m - 8 - m % 8) = m - m % 8 by omega]
        rw [Nat.add_assoc]
        congr 1
        rw [show m - 8 - m % 8 = (m - m % 8) - 8 by omega]
        rw [show 8 * L - (Q + 8) - (m - m % 8 - 8) = 8 * L - Q - (m - m % 8) by omega]
        have hsb := split_bits T (8 * L - Q - (m - m % 8)) 8 ((m - m % 8) - 8)
        rw [show 8 * L - Q - (m - m % 8) + (m - m % 8 - 8) = 8 * L - Q - 8 by omega] at hsb
        rw [show (8:Nat) + (m - m % 8 - 8) = m - m % 8 by omega] at hsb
        exact hsb.symm
      · congr 1
        rw [hmm]
        omega
    · rw [unpackWholeBytes_lt8 _ _ _ (by omega)]
      have hm8 : m % 8 = m := by omega
      rw [hm8, Nat.sub_self, Nat.pow_zero, Nat.mul_one]
      have hz : T / 2 ^ (8 * L - Q - 0) % 1 = 0 := Nat.mod_one _
      rw [hz, Nat.add_zero]
      have hst : ({ st with byte_index := (Q + 0) / 8 } : BitUnpacker) = st := by
        rw [show (Q + 0) / 8 = st.byte_index by omega]
      rw [hst]

theorem chunk_extract (L T P c : Nat) (st : BitUnpacker) (hbuf : BufSpec L T st.bytes)
    (hc1 : 0 < c) (hc : c ≤ 8 - P % 8) (hPc : P + c ≤ 8 * L) :
    (st.bytes.getD (P / 8) 0 >>> (8 - P % 8 - c)) &&& (2 ^ c - 1)
      = T / 2 ^ (8 * L - P - c) % 2 ^ c := by
  have hiL : P / 8 < L := by omega
  rw [hbuf.2 _ hiL]
  unfold ByteSpec
  rw [show 8 * (L - 1 - P / 8) = 8 * L - (P - P % 8) - 8 by omega]
  rw [Nat.shiftRight_eq_div_pow, and_mask_eq_mod]
  rw [show (256:Nat) = 2 ^ 8 from by norm_num]
  rw [extract_lo _ _ _ _ (by omega)]
  rw [Nat.div_div_eq_div_mul, ← Nat.pow_add,
    show 8 * L - (P - P % 8) - 8 + (8 - P % 8 - c) = 8 * L - P - c by omega]

theorem unpackWhole_zero (V : Nat) (st : BitUnpacker) :
    unpackWholeBytes V 0 st = (V, st) := rfl

theorem unpack_value_spec (L T P b : Nat) (st : BitUnpacker)
    (hPb : P + b ≤ 8 * L) (hinv : UnpackInv L T P st) :
    (st.unpack_value b).1 = T / 2 ^ (8 * L - P - b) % 2 ^ b
    ∧ UnpackInv L T (P + b) (st.unpack_value b).2 := by
  obtain ⟨hbi, hbu, hP8, hbuf, hTlt⟩ := hinv
  by_cases hb0 : b = 0
  · subst hb0
    simp only [BitUnpacker.unpack_value, if_true]
    refine ⟨?_, hbi, hbu, by omega, hbuf, hTlt⟩
    rw [Nat.pow_zero, Nat.mod_one]
  simp only [BitUnpacker.unpack_value, hb0, if_false, hbu, hbi]
  have havail : 0 < 8 - P % 8 := by omega
  by_cases hA : b ≤ 8 - P % 8
  · -- single chunk, no loop, no tail
    have hmin : min (8 - P % 8) b = b := by omega
    rw [hmin, mask_le8 _ (by omega)]
    have hch := chunk_extract L T P b st hbuf (by omega) (by omega) (by omega)
    rw [hch, Nat.sub_self, unpackWhole_zero]
    simp only [Nat.zero_mod, Nat.lt_irrefl, if_false]
    refine ⟨by trivial, ?_⟩
    have hb7 : (P % 8 + b) &&& 7 = (P + b) % 8 := by
      rw [land_mask7]
      omega
    by_cases hbav : b = 8 - P % 8
    · rw [if_pos hbav]
      exact ⟨by show P / 8 + 1 = (P + b) / 8; omega, hb7, by omega, hbuf, hTlt⟩
    · rw [if_neg hbav]
      exact ⟨by show st.byte_index = (P + b) / 8; omega, hb7, by omega, hbuf, hTlt⟩
  · -- chunk to end of byte, then loop, then optional tail
    have hmin : min (8 - P % 8) b = 8 - P % 8 := by omega
    rw [hmin, mask_le8 _ (by omega), Nat.sub_self, if_pos rfl]
    dsimp only
    have hch := chunk_extract L T P (8 - P % 8) st hbuf (by omega) (by omega) (by omega)
    rw [Nat.sub_self] at hch
    rw [hch]
    have hb7 : (P % 8 + (8 - P % 8)) &&& 7 = 0 := by
      rw [land_mask7]
      omega
    rw [hb7]
    have hst2 : UnpackInv L T (P + (8 - P % 8))
        { bytes := st.bytes, byte_index := P / 8 + 1, byte_bit_used := 0 } := by
      refine ⟨?_, ?_, by omega, hbuf, hTlt⟩
      · show P / 8 + 1 = (P + (8 - P % 8)) / 8
        omega
      · show 0 = (P + (8 - P % 8)) % 8
        omega
    have hloop := unpackWhole_spec L T (b - (8 - P % 8))
      (T / 2 ^ (8 * L - P - (8 - P % 8)) % 2 ^ (8 - P % 8)) (P + (8 - P % 8)) _
      (by omega) (by omega) hst2
    rw [hloop]
    have hV2eq : T / 2 ^ (8 * L - P - (8 - P % 8)) % 2 ^ (8 - P % 8)
          * 2 ^ (b - (8 - P % 8) - (b - (8 - P % 8)) % 8)
        + T / 2 ^ (8 * L - (P + (8 - P % 8)) - (b - (8 - P % 8) - (b - (8 - P % 8)) % 8))
          % 2 ^ (b - (8 - P % 8) - (b - (8 - P % 8)) % 8)
        = T / 2 ^ (8 * L - (P + b - (b - (8 - P % 8)) % 8))
          % 2 ^ (b - (b - (8 - P % 8)) % 8) := by
      rw [show 8 * L - (P + (8 - P % 8)) - (b - (8 - P % 8) - (b - (8 - P % 8)) % 8)
          = 8 * L - (P + b - (b - (8 - P % 8)) % 8) by omega]
      have hsb := split_bits T (8 * L - (P + b - (b - (8 - P % 8)) % 8)) (8 - P % 8)
        (b - (8 - P % 8) - (b - (8 - P % 8)) % 8)
      rw [show 8 * L - (P + b - (b - (8 - P % 8)) % 8)
          + (b - (8 - P % 8) - (b - (8 - P % 8)) % 8) = 8 * L - P - (8 - P % 8) by omega] at hsb
      rw [show 8 - P % 8 + (b - (8 - P % 8) - (b - (8 - P % 8)) % 8)
          = b - (b - (8 - P % 8)) % 8 by omega] at hsb
      exact hsb.symm
    by_cases hr0 : (b - (8 - P % 8)) % 8 > 0
    · rw [if_pos hr0]
      have hQ2a : (P + (8 - P % 8) + (b - (8 - P % 8) - (b - (8 - P % 8)) % 8)) % 8 = 0 := by
        omega
      have hbyte : st.bytes.getD
            ((P + (8 - P % 8) + (b - (8 - P % 8) - (b - (8 - P % 8)) % 8)) / 8) 0
          = T / 2 ^ (8 * L - (P + b - (b - (8 - P % 8)) % 8) - 8) % 2 ^ 8 := by
        have hlt : (P + (8 - P % 8) + (b - (8 - P % 8) - (b - (8 - P % 8)) % 8)) / 8 < L := by
          omega
        rw [hbuf.2 _ hlt]
        unfold ByteSpec
        rw [show 8 * (L - 1 - (P + (8 - P % 8) + (b - (8 - P % 8) - (b - (8 - P % 8)) % 8)) / 8)
            = 8 * L - (P + b - (b - (8 - P % 8)) % 8) - 8 by omega]
        norm_num
      rw [hbyte]
      have htail : (T / 2 ^ (8 * L - (P + b - (b - (8 - P % 8)) % 8) - 8) % 2 ^ 8)
            >>> (8 - (b - (8 - P % 8)) % 8)
          = T / 2 ^ (8 * L - P - b) % 2 ^ ((b - (8 - P % 8)) % 8) := by
        rw [Nat.shiftRight_eq_div_pow]
        have hlt2 : T / 2 ^ (8 * L - (P + b - (b - (8 - P % 8)) % 8) - 8) % 2 ^ 8
            / 2 ^ (8 - (b - (8 - P % 8)) % 8) < 2 ^ ((b - (8 - P % 8)) % 8) := by
          apply Nat.div_lt_of_lt_mul
          calc T / 2 ^ (8 * L - (P + b - (b - (8 - P % 8)) % 8) - 8) % 2 ^ 8 < 2 ^ 8 :=
                Nat.mod_lt _ (by norm_num)
            _ = 2 ^ (8 - (b - (8 - P % 8)) % 8) * 2 ^ ((b - (8 - P % 8)) % 8) := by
                rw [← Nat.pow_add]; congr 1; omega
        rw [← Nat.mod_eq_of_lt hlt2]
        rw [extract_lo _ _ _ _ (by omega)]
        rw [Nat.div_div_eq_div_mul, ← Nat.pow_add,
          show 8 * L - (P + b - (b - (8 - P % 8)) % 8) - 8 + (8 - (b - (8 - P % 8)) % 8)
            = 8 * L - P - b by omega]
      rw [htail]
      constructor
      · rw [Nat.shiftLeft_eq, hV2eq]
        rw [lor_mul_pow _ _ (Nat.mod_lt _ (by positivity))]
        have hsb2 := split_bits T (8 * L - P - b) (b - (b - (8 - P % 8)) % 8)
          ((b - (8 - P % 8)) % 8)
        rw [show 8 * L - P - b + (b - (8 - P % 8)) % 8
            = 8 * L - (P + b - (b - (8 - P % 8)) % 8) by omega] at hsb2
        rw [show b - (b - (8 - P % 8)) % 8 + (b - (8 - P % 8)) % 8 = b by omega] at hsb2
        exact hsb2.symm
      · refine ⟨?_, ?_, by omega, hbuf, hTlt⟩
        · show (P + (8 - P % 8) + (b - (8 - P % 8) - (b - (8 - P % 8)) % 8)) / 8
            = (P + b) / 8
          omega
        · show (b - (8 - P % 8)) % 8 = (P + b) % 8
          omega
    · rw [if_neg hr0]
      constructor
      · rw [hV2eq,
          show 8 * L - (P + b - (b - (8 - P % 8)) % 8) = 8 * L - P - b by omega,
          show b - (b - (8 - P % 8)) % 8 = b by omega]
      · refine ⟨?_, ?_, by omega, hbuf, hTlt⟩
        · show (P + (8 - P % 8) + (b - (8 - P % 8) - (b - (8 - P % 8)) % 8)) / 8
            = (P + b) / 8
          omega
        · show (0:Nat) = (P + b) % 8
          omega

/-- The stream value accumulated by packing a sequence from bit position `P`. -/
def streamT (L : Nat) : List (Nat × Nat) → Nat → Nat → Nat
  | [], _, T => T
  | p :: ps, P, T => streamT L ps (P + p.2) (T + p.1 * 2 ^ (8 * L - P - p.2))

theorem streamT_grow (L : Nat) : ∀ (ps : List (Nat × Nat)) P T,
    (∀ p ∈ ps, p.1 < 2 ^ p.2) → P + (ps.map Prod.snd).sum ≤ 8 * L →
    ∃ S, streamT L ps P T = T + S ∧ S < 2 ^ (8 * L - P) := by
  intro ps
  induction ps with
  | nil =>
    intro P T _ _
    exact ⟨0, rfl, by positivity⟩
  | cons p ps ih =>
    intro P T hv hsum
    simp only [List.map_cons, List.sum_cons] at hsum
    obtain ⟨S', hS', hlt'⟩ := ih (P + p.2) (T + p.1 * 2 ^ (8 * L - P - p.2))
      (fun q hq => hv q (by simp [hq])) (by omega)
    rw [show 8 * L - (P + p.2) = 8 * L - P - p.2 by omega] at hlt'
    refine ⟨p.1 * 2 ^ (8 * L - P - p.2) + S', ?_, ?_⟩
    · rw [streamT, hS']
      omega
    · have hp := hv p (by simp)
      calc p.1 * 2 ^ (8 * L - P - p.2) + S'
          < p.1 * 2 ^ (8 * L - P - p.2) + 2 ^ (8 * L - P - p.2) := by omega
        _ ≤ (p.1 + 1) * 2 ^ (8 * L - P - p.2) := by
            rw [Nat.add_mul, Nat.one_mul]
        _ ≤ 2 ^ p.2 * 2 ^ (8 * L - P - p.2) := Nat.mul_le_mul_right _ (by omega)
        _ = 2 ^ (8 * L - P) := by rw [← Nat.pow_add]; congr 1; omega

theorem packSeq_inv (L : Nat) : ∀ (ps : List (Nat × Nat)) T P st,
    (∀ p ∈ ps, p.1 < 2 ^ p.2) → P + (ps.map Prod.snd).sum ≤ 8 * L →
    PackInv L T P st →
    PackInv L (streamT L ps P T) (P + (ps.map Prod.snd).sum) (packSeq st ps) := by
  intro ps
  induction ps with
  | nil =>
    intro T P st _ _ hinv
    simpa [streamT, packSeq] using hinv
  | cons p ps ih =>
    intro T P st hv hsum hinv
    simp only [List.map_cons, List.sum_cons] at hsum ⊢
    have h1 := pack_value_inv L T P p.1 p.2 st (hv p (by simp)) (by omega) hinv
    have h2 := ih (T + p.1 * 2 ^ (8 * L - P - p.2)) (P + p.2) (st.pack_value p.1 p.2)
      (fun q hq => hv q (by simp [hq])) (by omega) h1
    show PackInv L (streamT L (p :: ps) P T) (P + (p.2 + (ps.map Prod.snd).sum))
      (packSeq (st.pack_value p.1 p.2) ps)
    rw [streamT, show P + (p.2 + (ps.map Prod.snd).sum) = P + p.2 + (ps.map Prod.snd).sum
      by omega]
    exact h2

theorem unpackSeq_cons (st : BitUnpacker) (b : Nat) (bs : List Nat) :
    unpackSeq st (b :: bs)
      = ((st.unpack_value b).1 :: (unpackSeq (st.unpack_value b).2 bs).1,
         (unpackSeq (st.unpack_value b).2 bs).2) := by
  rcases hpair : st.unpack_value b with ⟨v, st1⟩
  rcases hpair2 : unpackSeq st1 bs with ⟨vs, st2⟩
  simp [unpackSeq, hpair, hpair2]

theorem unpackSeq_spec (L : Nat) : ∀ (ps : List (Nat × Nat)) P T0 (st : BitUnpacker),
    (∀ p ∈ ps, p.1 < 2 ^ p.2) → P + (ps.map Prod.snd).sum ≤ 8 * L →
    T0 % 2 ^ (8 * L - P) = 0 →
    UnpackInv L (streamT L ps P T0) P st →
    (unpackSeq st (ps.map Prod.snd)).1 = ps.map Prod.fst ∧
    UnpackInv L (streamT L ps P T0) (P + (ps.map Prod.snd).sum)
      (unpackSeq st (ps.map Prod.snd)).2 := by
  intro ps
  induction ps with
  | nil =>
    intro P T0 st _ _ _ hinv
    simpa [streamT, unpackSeq] using hinv
  | cons p ps ih =>
    intro P T0 st hv hsum hT0 hinv
    simp only [List.map_cons, List.sum_cons] at hsum ⊢
    have hTfull : streamT L (p :: ps) P T0
        = streamT L ps (P + p.2) (T0 + p.1 * 2 ^ (8 * L - P - p.2)) := rfl
    have hval := unpack_value_spec L (streamT L (p :: ps) P T0) P p.2 st (by omega) hinv
    have hslice : streamT L (p :: ps) P T0 / 2 ^ (8 * L - P - p.2) % 2 ^ p.2 = p.1 := by
      obtain ⟨S2, hS2, hlt2⟩ := streamT_grow L ps (P + p.2)
        (T0 + p.1 * 2 ^ (8 * L - P - p.2)) (fun q hq => hv q (by simp [hq])) (by omega)
      rw [show 8 * L - (P + p.2) = 8 * L - P - p.2 by omega] at hlt2
      rw [hTfull, hS2]
      obtain ⟨u, hu⟩ := Nat.dvd_of_mod_eq_zero hT0
      have he : (2:Nat) ^ (8 * L - P) = 2 ^ p.2 * 2 ^ (8 * L - P - p.2) := by
        rw [← Nat.pow_add]; congr 1; omega
      rw [hu, he]
      have hrw : 2 ^ p.2 * 2 ^ (8 * L - P - p.2) * u + p.1 * 2 ^ (8 * L - P - p.2) + S2
          = 2 ^ (8 * L - P - p.2) * (2 ^ p.2 * u + p.1) + S2 := by ring
      rw [hrw]
      have hE : (0:Nat) < 2 ^ (8 * L - P - p.2) := by positivity
      have hS2e : 8 * L - (P + p.2) = 8 * L - P - p.2 := by omega
      rw [Nat.mul_add_div hE, Nat.div_eq_of_lt (by omega), Nat.add_zero]
      rw [Nat.add_comm (2 ^ p.2 * u) p.1, Nat.add_mul_mod_self_left]
      exact Nat.mod_eq_of_lt (hv p (by simp))
    obtain ⟨hv1, hinv1⟩ := hval
    rw [hslice] at hv1
    rw [unpackSeq_cons]
    have hT0t : (T0 + p.1 * 2 ^ (8 * L - P - p.2)) % 2 ^ (8 * L - (P + p.2)) = 0 := by
      apply Nat.mod_eq_zero_of_dvd
      apply Nat.dvd_add
      · exact dvd_trans (pow_dvd_sub _ _ (by omega)) (Nat.dvd_of_mod_eq_zero hT0)
      · apply Dvd.dvd.mul_left
        apply pow_dvd_sub
        omega
    have htail := ih (P + p.2) (T0 + p.1 * 2 ^ (8 * L - P - p.2)) (st.unpack_value p.2).2
      (fun q hq => hv q (by simp [hq])) (by omega) hT0t (by rw [← hTfull]; exact hinv1)
    rw [← hTfull] at htail
    refine ⟨?_, ?_⟩
    · show (st.unpack_value p.2).1 :: (unpackSeq (st.unpack_value p.2).2 (ps.map Prod.snd)).1
        = p.1 :: ps.map Prod.fst
      rw [hv1, htail.1]
    · show UnpackInv L (streamT L (p :: ps) P T0) (P + (p.2 + (ps.map Prod.snd).sum))
        (unpackSeq (st.unpack_value p.2).2 (ps.map Prod.snd)).2
      rw [show P + (p.2 + (ps.map Prod.snd).sum) = P + p.2 + (ps.map Prod.snd).sum by omega]
      exact htail.2

theorem getD_replicate (L j v : Nat) : (List.replicate L v).getD j v = v := by
  induction L generalizing j with
  | zero => rfl
  | succ n ih =>
    cases j with
    | zero => rfl
    | succ k => simpa [List.replicate, List.getD] using ih k

theorem getD_replicate0 (L j : Nat) : (List.replicate L 0).getD j 0 = 0 :=
  getD_replicate L j 0

/-- C4: packing any sequence of (value, width) pairs with `BitPacker::pack_value`
into a zeroed buffer of sufficient size and unpacking the same widths with
`BitUnpacker::unpack_value` reproduces every value, and `byte_used()` equals the
byte position reached by the unpacker. -/
theorem c4_bitpacker_roundtrip (ps : List (Nat × Nat)) (L : Nat)
    (hb : ∀ p ∈ ps, p.2 ≤ 64 ∧ p.1 < 2 ^ p.2)
    (hL : (ps.map Prod.snd).sum ≤ 8 * L) :
    (unpackSeq (BitUnpacker.new (packSeq (BitPacker.new (List.replicate L 0)) ps).bytes)
        (ps.map Prod.snd)).1 = ps.map Prod.fst
    ∧ (packSeq (BitPacker.new (List.replicate L 0)) ps).byte_used
      = (if (unpackSeq (BitUnpacker.new
              (packSeq (BitPacker.new (List.replicate L 0)) ps).bytes)
              (ps.map Prod.snd)).2.byte_bit_used = 0
         then (unpackSeq (BitUnpacker.new
              (packSeq (BitPacker.new (List.replicate L 0)) ps).bytes)
              (ps.map Prod.snd)).2.byte_index
         else (unpackSeq (BitUnpacker.new
              (packSeq (BitPacker.new (List.replicate L 0)) ps).bytes)
              (ps.map Prod.snd)).2.byte_index + 1) := by
  have hv : ∀ p ∈ ps, p.1 < 2 ^ p.2 := fun p hp => (hb p hp).2
  have hinit : PackInv L 0 0 (BitPacker.new (List.replicate L 0)) := by
    refine ⟨rfl, rfl, by omega, ⟨by simp [BitPacker.new], ?_⟩, ?_, by positivity⟩
    · intro j hj
      show (List.replicate L 0).getD j 0 = ByteSpec L 0 j
      rw [getD_replicate0]
      unfold ByteSpec
      simp
    · simp
  have hpack := packSeq_inv L ps 0 0 _ hv (by omega) hinit
  rw [Nat.zero_add] at hpack
  obtain ⟨hbi, hbu, hP8, hbuf, hT0p, hTlt⟩ := hpack
  have hinvU : UnpackInv L (streamT L ps 0 0) 0
      (BitUnpacker.new (packSeq (BitPacker.new (List.replicate L 0)) ps).bytes) := by
    exact ⟨rfl, rfl, by omega, hbuf, hTlt⟩
  have hun := unpackSeq_spec L ps 0 0 _ hv (by omega) (by simp) hinvU
  rw [Nat.zero_add] at hun
  refine ⟨hun.1, ?_⟩
  obtain ⟨hbiU, hbuU, _, _, _⟩ := hun.2
  rw [BitPacker.byte_used, hbi, hbu, hbiU, hbuU]

theorem c4_bitpacker_roundtrip_witness :
    (∀ p ∈ [((5:Nat),(3:Nat)), (1,1), (255,8), (0,0), (77,7)], p.2 ≤ 64 ∧ p.1 < 2 ^ p.2)
    ∧ ([((5:Nat),(3:Nat)), (1,1), (255,8), (0,0), (77,7)].map Prod.snd).sum ≤ 8 * 3
    ∧ ((unpackSeq (BitUnpacker.new (packSeq (BitPacker.new (List.replicate 3 0))
          [((5:Nat),(3:Nat)), (1,1), (255,8), (0,0), (77,7)]).bytes)
          ([((5:Nat),(3:Nat)), (1,1), (255,8), (0,0), (77,7)].map Prod.snd)).1
        = [((5:Nat),(3:Nat)), (1,1), (255,8), (0,0), (77,7)].map Prod.fst
      ∧ (packSeq (BitPacker.new (List.replicate 3 0))
          [((5:Nat),(3:Nat)), (1,1), (255,8), (0,0), (77,7)]).byte_used
        = (if (unpackSeq (BitUnpacker.new (packSeq (BitPacker.new (List.replicate 3 0))
                [((5:Nat),(3:Nat)), (1,1), (255,8), (0,0), (77,7)]).bytes)
                ([((5:Nat),(3:Nat)), (1,1), (255,8), (0,0), (77,7)].map Prod.snd)).2.byte_bit_used = 0
           then (unpackSeq (BitUnpacker.new (packSeq (BitPacker.new (List.replicate 3 0))
                [((5:Nat),(3:Nat)), (1,1), (255,8), (0,0), (77,7)]).bytes)
                ([((5:Nat),(3:Nat)), (1,1), (255,8), (0,0), (77,7)].map Prod.snd)).2.byte_index
           else (unpackSeq (BitUnpacker.new (packSeq (BitPacker.new (List.replicate 3 0))
                [((5:Nat),(3:Nat)), (1,1), (255,8), (0,0), (77,7)]).bytes)
                ([((5:Nat),(3:Nat)), (1,1), (255,8), (0,0), (77,7)].map Prod.snd)).2.byte_index + 1)) :=
  ⟨by decide, by decide, c4_bitpacker_roundtrip _ 3 (by decide) (by decide)⟩

/-! ## Frequent-items sketch
(src/datasketches/src/frequencies/reverse_purge_item_hash_map.rs and
src/datasketches/src/frequencies/sketch.rs)

Items are embedded as `Nat`.  The item hash (`hash_item`, built on
`MurmurHash3X64128` from `hash.rs`, which is not under `src/`) is a fixed pure
function of the item; it is modelled as an explicit parameter `hashF` of every
operation.  Probe loops are embedded with an explicit probe budget (`fuel`);
the load-factor discipline keeps at least a quarter of the slots empty, so a
budget of the array length never runs out on reachable states (the Rust loops
would diverge or panic otherwise). -/

/-- `ReversePurgeItemHashMap` state: parallel arrays plus the active counter. -/
structure RPMap where
  lg_length : Nat
  load_threshold : Nat
  keys : List (Option Nat)
  values : List Nat
  states : List Nat
  num_active : Nat
  deriving Repr, DecidableEq

namespace RPMap

/-- `ReversePurgeItemHashMap::new`.  `map_size` is a power of two at every call
site.  `(map_size as f64 * 0.75) as usize` equals `map_size * 3 / 4` exactly for
the powers of two in range. -/
def new (map_size : Nat) : RPMap :=
  { lg_length := Nat.log2 map_size
    load_threshold := map_size * 3 / 4
    keys := List.replicate map_size none
    values := List.replicate map_size 0
    states := List.replicate map_size 0
    num_active := 0 }

def len (m : RPMap) : Nat := m.keys.length

def capacity (m : RPMap) : Nat := m.load_threshold

/-- The probe loop of `adjust_or_put_value`: advance while the slot is occupied
by a different key.  Returns the final probe position and drift. -/
def probeLoop (m : RPMap) (key : Nat) (mask : Nat) : Nat → Nat → Nat → Nat × Nat
  | 0, probe, drift => (probe, drift)
  | fuel + 1, probe, drift =>
    if m.states.getD probe 0 ≠ 0 then
      if m.keys.getD probe none = some key then (probe, drift)
      else probeLoop m key mask fuel ((probe + 1) &&& mask) (drift + 1)
    else (probe, drift)

/-- `ReversePurgeItemHashMap::adjust_or_put_value` -/
def adjust_or_put_value (hashF : Nat → Nat) (m : RPMap) (key : Nat) (adjust_amount : Nat) :
    RPMap :=
  let mask := m.keys.length - 1
  let start := hashF key &&& mask
  let (probe, drift) := probeLoop m key mask m.keys.length start 1
  if m.states.getD probe 0 = 0 then
    { m with
      keys := m.keys.set probe (some key)
      values := m.values.set probe adjust_amount
      states := m.states.set probe drift
      num_active := m.num_active + 1 }
  else
    { m with values := m.values.set probe (m.values.getD probe 0 + adjust_amount) }

/-- `ReversePurgeItemHashMap::get` (the probe loop of `hash_probe` is the same
loop as in `adjust_or_put_value`, without the drift counter). -/
def get (hashF : Nat → Nat) (m : RPMap) (key : Nat) : Nat :=
  let mask := m.keys.length - 1
  let start := hashF key &&& mask
  let (probe, _) := probeLoop m key mask m.keys.length start 1
  if m.states.getD probe 0 > 0 then m.values.getD probe 0 else 0

/-- The backward-shift loop of `hash_delete`: scan forward while slots are
occupied, moving each entry whose stored drift exceeds the gap distance into
the hole. -/
def deleteLoop (mask : Nat) : Nat → RPMap → Nat → Nat → Nat → RPMap
  | 0, m, _, _, _ => m
  | fuel + 1, m, delete_probe, probe, drift =>
    if m.states.getD probe 0 ≠ 0 then
      let m' :=
        if m.states.getD probe 0 > drift then
          { m with
            keys := (m.keys.set delete_probe (m.keys.getD probe none)).set probe none
            values := m.values.set delete_probe (m.values.getD probe 0)
            states := (m.states.set delete_probe (m.states.getD probe 0 - drift)).set probe 0 }
        else m
      let (delete_probe', drift') :=
        if m.states.getD probe 0 > drift then (probe, 0) else (delete_probe, drift)
      deleteLoop mask fuel m' delete_probe' ((probe + 1) &&& mask) (drift' + 1)
    else m

/-- `ReversePurgeItemHashMap::hash_delete` -/
def hash_delete (m : RPMap) (delete_probe : Nat) : RPMap :=
  let m0 := { m with
    states := m.states.set delete_probe 0
    keys := m.keys.set delete_probe none }
  let mask := m.keys.length - 1
  deleteLoop mask m.keys.length m0 delete_probe ((delete_probe + 1) &&& mask) 1

/-- The scan in `keep_only_positive_counts` that finds the highest-index empty
slot; the load-factor discipline guarantees one exists before index 0 is
passed (`first_probe -= 1` would underflow in Rust otherwise). -/
def findFirstProbe (m : RPMap) : Nat → Nat
  | 0 => 0
  | i + 1 => if m.states.getD (i + 1) 0 > 0 then findFirstProbe m i else i + 1

/-- One deletion step of `keep_only_positive_counts`. -/
def purgeSlot (m : RPMap) (probe : Nat) : RPMap :=
  if m.states.getD probe 0 > 0 ∧ m.values.getD probe 0 = 0 then
    { m.hash_delete probe with num_active := (m.hash_delete probe).num_active - 1 }
  else m

/-- `ReversePurgeItemHashMap::keep_only_positive_counts` -/
def keep_only_positive_counts (m : RPMap) : RPMap :=
  let len := m.keys.length
  let first_probe := findFirstProbe m (len - 1)
  let m1 := (List.range first_probe).reverse.foldl purgeSlot m
  ((List.range (len - first_probe)).map (fun k => len - 1 - k)).foldl purgeSlot m1

/-- `ReversePurgeItemHashMap::adjust_all_values_by` (saturating subtraction). -/
def adjust_all_values_by (m : RPMap) (adjust_amount : Nat) : RPMap :=
  { m with values := m.values.map (fun v => v - adjust_amount) }

/-- The sampling loop of `purge`: walk the slots from index 0 collecting active
values until `limit` samples are gathered (`limit ≤ num_active`, so the walk
ends within the array). -/
def collectSamples (m : RPMap) (limit : Nat) : Nat → Nat → List Nat → List Nat
  | 0, _, acc => acc.reverse
  | fuel + 1, i, acc =>
    if acc.length < limit then
      if m.states.getD i 0 > 0 then
        collectSamples m limit fuel (i + 1) (m.values.getD i 0 :: acc)
      else collectSamples m limit fuel (i + 1) acc
    else acc.reverse

/-- Modelled from the Rust standard library contract of
`select_nth_unstable(mid)`: afterwards `samples[mid]` is the element that would
be at position `mid` in sorted order. -/
def selectNth (samples : List Nat) (mid : Nat) : Nat :=
  (samples.mergeSort (· ≤ ·)).getD mid 0

/-- `ReversePurgeItemHashMap::purge` -/
def purge (m : RPMap) (sample_size : Nat) : RPMap × Nat :=
  let limit := min (min sample_size m.num_active) 1024
  let samples := collectSamples m limit m.states.length 0 []
  let mid := samples.length / 2
  let median := selectNth samples mid
  let m1 := (m.adjust_all_values_by median).keep_only_positive_counts
  (m1, median)

/-- `ReversePurgeItemHashMap::resize` -/
def resize (hashF : Nat → Nat) (m : RPMap) (new_size : Nat) : RPMap :=
  let fresh : RPMap :=
    { lg_length := Nat.log2 new_size
      load_threshold := new_size * 3 / 4
      keys := List.replicate new_size none
      values := List.replicate new_size 0
      states := List.replicate new_size 0
      num_active := 0 }
  (List.range m.keys.length).foldl
    (fun acc i =>
      if m.states.getD i 0 > 0 then
        match m.keys.getD i none with
        | some key => adjust_or_put_value hashF acc key (m.values.getD i 0)
        | none => acc
      else acc)
    fresh

end RPMap

/-- `FrequentItemsSketch` state (src/datasketches/src/frequencies/sketch.rs). -/
structure FrequentItemsSketch where
  lg_max_map_size : Nat
  cur_map_cap : Nat
  offset : Nat
  stream_weight : Nat
  sample_size : Nat
  hash_map : RPMap
  deriving Repr, DecidableEq

namespace FrequentItemsSketch

/-- `LG_MIN_MAP_SIZE` -/
def LG_MIN_MAP_SIZE : Nat := 3

/-- `SAMPLE_SIZE` -/
def SAMPLE_SIZE : Nat := 1024

/-- `FrequentItemsSketch::with_lg_map_sizes` -/
def with_lg_map_sizes (lg_max_map_size lg_cur_map_size : Nat) : FrequentItemsSketch :=
  let lg_max := max lg_max_map_size LG_MIN_MAP_SIZE
  let lg_cur := max lg_cur_map_size LG_MIN_MAP_SIZE
  let map := RPMap.new (1 <<< lg_cur)
  let max_map_cap := (1 <<< lg_max) * 3 / 4
  { lg_max_map_size := lg_max
    cur_map_cap := map.capacity
    offset := 0
    stream_weight := 0
    sample_size := min SAMPLE_SIZE max_map_cap
    hash_map := map }

/-- `FrequentItemsSketch::new` (`max_map_size` is `1 <<< lg` at the call sites
of interest; `exact_log2` is `Nat.log2` on powers of two). -/
def new (max_map_size : Nat) : FrequentItemsSketch :=
  with_lg_map_sizes (Nat.log2 max_map_size) LG_MIN_MAP_SIZE

/-- `FrequentItemsSketch::maximum_map_capacity` -/
def maximum_map_capacity (s : FrequentItemsSketch) : Nat :=
  (1 <<< s.lg_max_map_size) * 3 / 4

/-- `FrequentItemsSketch::estimate` -/
def estimate (hashF : Nat → Nat) (s : FrequentItemsSketch) (item : Nat) : Nat :=
  let value := s.hash_map.get hashF item
  if value > 0 then value + s.offset else 0

/-- `FrequentItemsSketch::lower_bound` -/
def lower_bound (hashF : Nat → Nat) (s : FrequentItemsSketch) (item : Nat) : Nat :=
  s.hash_map.get hashF item

/-- `FrequentItemsSketch::upper_bound` -/
def upper_bound (hashF : Nat → Nat) (s : FrequentItemsSketch) (item : Nat) : Nat :=
  s.hash_map.get hashF item + s.offset

/-- `FrequentItemsSketch::maximum_error` -/
def maximum_error (s : FrequentItemsSketch) : Nat := s.offset

/-- `FrequentItemsSketch::maybe_resize_or_purge`.  The defensive
`panic!("purge did not reduce ...")` after a purge is omitted: it does not
alter the state when it does not fire, and it cannot fire right after an
insertion - at that point `num_active = cur_map_cap + 1`, and `purge` always
removes at least the active slot whose value equals the subtracted median. -/
def maybe_resize_or_purge (hashF : Nat → Nat) (s : FrequentItemsSketch) :
    FrequentItemsSketch :=
  if s.hash_map.num_active > s.cur_map_cap then
    if s.hash_map.lg_length < s.lg_max_map_size then
      let map := s.hash_map.resize hashF (s.hash_map.len * 2)
      { s with hash_map := map, cur_map_cap := map.capacity }
    else
      let (map, delta) := s.hash_map.purge s.sample_size
      { s with hash_map := map, offset := s.offset + delta }
  else s

/-- `FrequentItemsSketch::update_with_count`.  A count of zero returns before
touching any state. -/
def update_with_count (hashF : Nat → Nat) (s : FrequentItemsSketch)
    (item : Nat) (count : Nat) : FrequentItemsSketch :=
  if count = 0 then s
  else
    let s1 := { s with
      stream_weight := s.stream_weight + count
      hash_map := s.hash_map.adjust_or_put_value hashF item count }
    maybe_resize_or_purge hashF s1

/-- `FrequentItemsSketch::update` -/
def update (hashF : Nat → Nat) (s : FrequentItemsSketch) (item : Nat) :
    FrequentItemsSketch :=
  update_with_count hashF s item 1

end FrequentItemsSketch

/-- C10: `update_with_count(item, 0)` is a complete no-op - the resulting state
(and hence the stream weight, offset, map contents, current map capacity and
every query result) is exactly the state before the call, for every sketch
state, item, and item-hash function. -/
theorem c10_update_with_count_zero_noop (hashF : Nat → Nat)
    (s : FrequentItemsSketch) (item : Nat) :
    s.update_with_count hashF item 0 = s := by
  simp [FrequentItemsSketch.update_with_count]

/-! ## HLL Array8 engine (src/src/hll/array8.rs)

The HIP estimator (`estimator.rs`, not under `src/`) is pure `f64` state and is
not read or written by any code path that touches `bytes` or `num_zeros`; it is
therefore omitted from the state. -/

/-- Modelled from the spec: a coupon packs the register slot index in its high
bits and the register value in its low 6 bits (`get_slot`/`get_value` live in
`src/src/hll/mod.rs`, which is not included under `src/`). -/
def get_slot (coupon : Nat) : Nat := coupon >>> 6

/-- Modelled from the spec: the low 6 bits of a coupon are the register value. -/
def get_value (coupon : Nat) : Nat := coupon &&& 63

/-- `Array8` (src/src/hll/array8.rs): one byte per slot plus the zero-register
counter. -/
structure Array8 where
  lg_config_k : Nat
  bytes : List Nat
  num_zeros : Nat
  deriving Repr, DecidableEq

/-- `Array8::new` -/
def Array8.new (lg_config_k : Nat) : Array8 :=
  { lg_config_k := lg_config_k
    bytes := List.replicate (1 <<< lg_config_k) 0
    num_zeros := 1 <<< lg_config_k }

/-- `Array8::get` -/
def Array8.get (a : Array8) (slot : Nat) : Nat := a.bytes.getD slot 0

/-- `Array8::put` -/
def Array8.put (a : Array8) (slot value : Nat) : Array8 :=
  { a with bytes := a.bytes.set slot value }

/-- `Array8::update` -/
def Array8.update (a : Array8) (coupon : Nat) : Array8 :=
  let mask := (1 <<< a.lg_config_k) - 1
  let slot := get_slot coupon &&& mask
  let new_value := get_value coupon
  let old_value := a.get slot
  if new_value > old_value then
    let a' := a.put slot new_value
    if old_value = 0 then { a' with num_zeros := a'.num_zeros - 1 } else a'
  else a

/-- The `Array8` state invariant: the byte array has its nominal length and
`num_zeros` counts the zero registers. -/
def Array8.Inv (a : Array8) : Prop :=
  a.bytes.length = 1 <<< a.lg_config_k ∧ a.num_zeros = a.bytes.count 0

theorem Array8.new_inv (lg_k : Nat) : (Array8.new lg_k).Inv := by
  constructor
  · simp [Array8.new]
  · simp [Array8.new, List.count_replicate]

theorem Array8.update_slot_lt (a : Array8) (coupon : Nat)
    (hlen : a.bytes.length = 1 <<< a.lg_config_k) :
    get_slot coupon &&& ((1 <<< a.lg_config_k) - 1) < a.bytes.length := by
  rw [hlen, Nat.shiftLeft_eq, Nat.one_mul]
  have h := Nat.and_pow_two_sub_one_eq_mod (get_slot coupon) a.lg_config_k
  rw [Nat.shiftLeft_eq, Nat.one_mul] at *
  rw [h]
  exact Nat.mod_lt _ (Nat.pos_pow_of_pos _ (by omega))

theorem count_set_eq_zero (l : List Nat) (i v : Nat) (hi : i < l.length)
    (h0 : l.get ⟨i, hi⟩ = 0) (hv : v ≠ 0) :
    (l.set i v).count 0 + 1 = l.count 0 := by
  induction l generalizing i with
  | nil => simp at hi
  | cons x xs ih =>
    cases i with
    | zero =>
      simp only [List.get] at h0
      subst h0
      simp [List.set, List.count_cons, hv]
    | succ j =>
      simp only [List.length_cons] at hi
      have := ih j (by omega) h0
      simp only [List.set, List.count_cons]
      omega

theorem count_set_ne_zero (l : List Nat) (i v : Nat) (hi : i < l.length)
    (h0 : l.get ⟨i, hi⟩ ≠ 0) (hv : v ≠ 0) :
    (l.set i v).count 0 = l.count 0 := by
  induction l generalizing i with
  | nil => simp at hi
  | cons x xs ih =>
    cases i with
    | zero =>
      simp only [List.get] at h0
      simp [List.set, List.count_cons, hv, h0]
    | succ j =>
      simp only [List.length_cons] at hi
      have := ih j (by omega) h0
      simp only [List.set, List.count_cons]
      omega

theorem Array8.update_inv (a : Array8) (coupon : Nat) (h : a.Inv) :
    (a.update coupon).Inv := by
  obtain ⟨hlen, hcount⟩ := h
  have hslot := a.update_slot_lt coupon hlen
  unfold Array8.update
  by_cases hgt : get_value coupon > a.get (get_slot coupon &&& ((1 <<< a.lg_config_k) - 1))
  · simp only [hgt, if_true]
    set slot := get_slot coupon &&& ((1 <<< a.lg_config_k) - 1) with hslotdef
    have hget : a.get slot = a.bytes.get ⟨slot, hslot⟩ := by
      simp [Array8.get, List.getD_eq_getElem?_getD, List.getElem?_eq_getElem hslot,
        List.get_eq_getElem]
    have hvne : get_value coupon ≠ 0 := by omega
    by_cases h0 : a.get slot = 0
    · simp only [h0, if_true]
      refine ⟨by simpa [Array8.put] using hlen, ?_⟩
      have := count_set_eq_zero a.bytes slot (get_value coupon) hslot (by rw [← hget]; exact h0) hvne
      simp only [Array8.put]
      omega
    · simp only [h0, if_false]
      refine ⟨by simpa [Array8.put] using hlen, ?_⟩
      have := count_set_ne_zero a.bytes slot (get_value coupon) hslot (by rw [← hget]; exact h0) hvne
      simp only [Array8.put]
      omega
  · simp only [hgt, if_false]
    exact ⟨hlen, hcount⟩

theorem Array8.foldl_inv (lg_k : Nat) (coupons : List Nat) :
    (coupons.foldl Array8.update (Array8.new lg_k)).Inv := by
  have h : ∀ (a : Array8), a.Inv → (coupons.foldl Array8.update a).Inv := by
    induction coupons with
    | nil => intro a ha; exact ha
    | cons c cs ih => intro a ha; exact ih _ (a.update_inv c ha)
  exact h _ (Array8.new_inv lg_k)

theorem getD_set_self (l : List Nat) (i v : Nat) (hi : i < l.length) :
    (l.set i v).getD i 0 = v := by
  induction l generalizing i with
  | nil => simp at hi
  | cons x xs ih =>
    cases i with
    | zero => rfl
    | succ j =>
      simp only [List.length_cons] at hi
      simpa [List.set, List.getD] using ih j (by omega)

theorem getD_set_ne (l : List Nat) (i j v : Nat) (hne : i ≠ j) :
    (l.set i v).getD j 0 = l.getD j 0 := by
  induction l generalizing i j with
  | nil => rfl
  | cons x xs ih =>
    cases i with
    | zero =>
      cases j with
      | zero => exact absurd rfl hne
      | succ j2 => rfl
    | succ i2 =>
      cases j with
      | zero => rfl
      | succ j2 =>
        simpa [List.set, List.getD] using ih i2 j2 (by omega)

theorem getD_set_oob (l : List Nat) (i v : Nat) (hi : l.length ≤ i) :
    l.set i v = l := by
  induction l generalizing i with
  | nil => rfl
  | cons x xs ih =>
    cases i with
    | zero => simp at hi
    | succ j =>
      simp only [List.length_cons] at hi
      simp [List.set, ih j (by omega)]

theorem getD_set_monotone (l : List Nat) (i v s : Nat) (hv : l.getD i 0 < v) :
    (l.set i v).getD s 0 = l.getD s 0 ∨ l.getD s 0 < (l.set i v).getD s 0 := by
  by_cases hsl : s = i
  · subst hsl
    by_cases hin : s < l.length
    · right
      rw [getD_set_self l s v hin]
      exact hv
    · left
      rw [getD_set_oob l s v (by omega)]
  · left
    exact getD_set_ne l i s v (fun h => hsl h.symm)

theorem Array8.update_bytes_cases (a : Array8) (coupon : Nat) :
    (a.update coupon).bytes = a.bytes ∨
      ∃ t v, a.bytes.getD t 0 < v ∧ (a.update coupon).bytes = a.bytes.set t v := by
  unfold Array8.update
  by_cases hgt : get_value coupon > a.get (get_slot coupon &&& ((1 <<< a.lg_config_k) - 1))
  · right
    refine ⟨get_slot coupon &&& ((1 <<< a.lg_config_k) - 1), get_value coupon, hgt, ?_⟩
    by_cases h0 : a.get (get_slot coupon &&& ((1 <<< a.lg_config_k) - 1)) = 0
    · have hpos : (0 : Nat) < get_value coupon := by omega
      simp [hgt, h0, hpos, Array8.put]
    · simp [hgt, h0, Array8.put]
  · left
    simp [hgt]

theorem Array8.update_monotone (a : Array8) (coupon slot : Nat) :
    (a.update coupon).get slot = a.get slot ∨ a.get slot < (a.update coupon).get slot := by
  rcases a.update_bytes_cases coupon with h | ⟨t, v, hv, h⟩
  · left
    simp [Array8.get, h]
  · show (a.update coupon).bytes.getD slot 0 = a.bytes.getD slot 0 ∨
      a.bytes.getD slot 0 < (a.update coupon).bytes.getD slot 0
    rw [h]
    exact getD_set_monotone a.bytes t v slot hv

/-- C9: after any sequence of `update` calls on `Array8::new(lg_k)`, the
`num_zeros` field equals the number of register slots holding 0, and a single
`update` either leaves a register unchanged or strictly increases it. -/
theorem c9_array8_num_zeros_and_register_monotone (lg_k : Nat) (coupons : List Nat) :
    (coupons.foldl Array8.update (Array8.new lg_k)).num_zeros
      = ((coupons.foldl Array8.update (Array8.new lg_k)).bytes.count 0) ∧
    ∀ (a : Array8) (c slot : Nat),
      (a.update c).get slot = a.get slot ∨ a.get slot < (a.update c).get slot := by
  refine ⟨(Array8.foldl_inv lg_k coupons).2, ?_⟩
  intro a c slot
  exact a.update_monotone c slot

/-! ## Compact Theta sketches (src/datasketches/src/theta/sketch.rs)

`u64` values are `Nat` below `2 ^ 64`; byte buffers are `List Nat` of byte
values.  The writer side (`SketchBytes`, codec/mod.rs) appends bytes, so it is
embedded as list concatenation; the reader side (`SketchSlice`) consumes a
prefix, so it is embedded as functions from the remaining list.  `Error` values
are reduced to their kind and static tag: interpolated numbers in messages are
dropped. -/

/-- Modelled from the spec: `MAX_THETA` (theta/hash_table.rs is not under
`src/`): θ ranges over `[0, MAX_THETA]` with `MAX_THETA = 2 ^ 64 - 1`. -/
def MAX_THETA : Nat := 2 ^ 64 - 1

/-- Modelled from the spec: the Theta family id and preamble-longs range
(codec/family.rs is not under `src/`; the spec fixes the shared preamble with
per-family id and preamble-longs range, Theta allowing 1..=3). -/
def THETA_FAMILY_ID : Nat := 3

/-- Modelled from the spec: `Family::THETA.min_pre_longs`. -/
def THETA_MIN_PRE_LONGS : Nat := 1

/-- Modelled from the spec: `Family::THETA.max_pre_longs`. -/
def THETA_MAX_PRE_LONGS : Nat := 3

/-- Modelled from the spec: flag bits (theta/serialization.rs is not under
`src/`); the flags byte carries `{is_empty, is_compact, is_ordered,
is_read_only}` as the reference wire format's bits 2/4/8/16. -/
def FLAGS_IS_READ_ONLY : Nat := 2

/-- Modelled from the spec: the `is_empty` flag bit. -/
def FLAGS_IS_EMPTY : Nat := 4

/-- Modelled from the spec: the `is_compact` flag bit. -/
def FLAGS_IS_COMPACT : Nat := 8

/-- Modelled from the spec: the `is_ordered` flag bit. -/
def FLAGS_IS_ORDERED : Nat := 16

/-- Modelled from the spec: serial version 3 is the canonical uncompressed
compact format. -/
def UNCOMPRESSED_SERIAL_VERSION : Nat := 3

/-- Modelled from the spec: serial version 4 is the compressed format. -/
def COMPRESSED_SERIAL_VERSION : Nat := 4

/-- Modelled from the spec: v2 preamble-longs value for an empty sketch. -/
def V2_PREAMBLE_EMPTY : Nat := 1

/-- Modelled from the spec: v2 preamble-longs value for exact (precise) mode. -/
def V2_PREAMBLE_PRECISE : Nat := 2

/-- Modelled from the spec: v2 preamble-longs value for estimation mode. -/
def V2_PREAMBLE_ESTIMATE : Nat := 3

/-- Modelled from the spec: `SketchBytes::write_u16_le` (codec/mod.rs is not
under `src/`): two little-endian bytes. -/
def u16_le_bytes (x : Nat) : List Nat := [x % 256, x / 256 % 256]

/-- Modelled from the spec: `SketchBytes::write_u16_be`. -/
def u16_be_bytes (x : Nat) : List Nat := [x / 256 % 256, x % 256]

/-- Modelled from the spec: `SketchBytes::write_u32_le`. -/
def u32_le_bytes (x : Nat) : List Nat :=
  [x % 256, x / 256 % 256, x / 2 ^ 16 % 256, x / 2 ^ 24 % 256]

/-- Modelled from the spec: `SketchBytes::write_u32_be`. -/
def u32_be_bytes (x : Nat) : List Nat :=
  [x / 2 ^ 24 % 256, x / 2 ^ 16 % 256, x / 256 % 256, x % 256]

/-- Modelled from the spec: `SketchBytes::write_u64_le`. -/
def u64_le_bytes (x : Nat) : List Nat :=
  [x % 256, x / 2 ^ 8 % 256, x / 2 ^ 16 % 256, x / 2 ^ 24 % 256,
    x / 2 ^ 32 % 256, x / 2 ^ 40 % 256, x / 2 ^ 48 % 256, x / 2 ^ 56 % 256]

/-- The deserializer's failure modes: `Error::insufficient_data`,
`Error::deserial` / `Error::invalid_preamble_longs` (both InvalidData), and a
marker for inputs on which the Rust code would panic in an internal assert
rather than return `Err`. -/
inductive DeserError where
  | insufficientData (tag : String)
  | invalidData (tag : String)
  | panicked (tag : String)
  deriving Repr, DecidableEq

/-- Modelled from the spec: `SketchSlice::read_u8` — one byte or an
insufficient-data error. -/
def rdU8 (tag : String) : List Nat → Except DeserError (Nat × List Nat)
  | [] => .error (.insufficientData tag)
  | b :: r => .ok (b, r)

/-- Modelled from the spec: `SketchSlice::read_u16_le`. -/
def rdU16le (tag : String) : List Nat → Except DeserError (Nat × List Nat)
  | b0 :: b1 :: r => .ok (b0 + 256 * b1, r)
  | _ => .error (.insufficientData tag)

/-- Modelled from the spec: `SketchSlice::read_u32_le`. -/
def rdU32le (tag : String) : List Nat → Except DeserError (Nat × List Nat)
  | b0 :: b1 :: b2 :: b3 :: r =>
    .ok (b0 + 256 * b1 + 2 ^ 16 * b2 + 2 ^ 24 * b3, r)
  | _ => .error (.insufficientData tag)

/-- Modelled from the spec: `SketchSlice::read_u64_le`. -/
def rdU64le (tag : String) : List Nat → Except DeserError (Nat × List Nat)
  | b0 :: b1 :: b2 :: b3 :: b4 :: b5 :: b6 :: b7 :: r =>
    .ok (b0 + 2 ^ 8 * b1 + 2 ^ 16 * b2 + 2 ^ 24 * b3 + 2 ^ 32 * b4
      + 2 ^ 40 * b5 + 2 ^ 48 * b6 + 2 ^ 56 * b7, r)
  | _ => .error (.insufficientData tag)

/-- Modelled from the spec: `SketchSlice::read_exact` into an `n`-byte buffer. -/
def rdExact (tag : String) (n : Nat) (l : List Nat) :
    Except DeserError (List Nat × List Nat) :=
  if n ≤ l.length then .ok (l.take n, l.drop n) else .error (.insufficientData tag)

/-- `CompactThetaSketch`. -/
structure CompactThetaSketch where
  entries : List Nat
  theta : Nat
  seed_hash : Nat
  ordered : Bool
  empty : Bool
  deriving Repr, DecidableEq

/-- `CompactThetaSketch::is_empty` -/
def CompactThetaSketch.is_empty (s : CompactThetaSketch) : Bool := s.empty

/-- `CompactThetaSketch::is_estimation_mode` -/
def CompactThetaSketch.is_estimation_mode (s : CompactThetaSketch) : Bool :=
  s.theta < MAX_THETA

/-- `CompactThetaSketch::num_retained` -/
def CompactThetaSketch.num_retained (s : CompactThetaSketch) : Nat :=
  s.entries.length

/-- `CompactThetaSketch::preamble_longs` -/
def CompactThetaSketch.preamble_longs (s : CompactThetaSketch) (compressed : Bool) : Nat :=
  if compressed then
    if s.is_estimation_mode then 2 else 1
  else
    if s.is_estimation_mode then 3
    else if s.is_empty || s.entries.length = 1 then 1 else 2

/-- `CompactThetaSketch::is_suitable_for_compression` -/
def CompactThetaSketch.is_suitable_for_compression (s : CompactThetaSketch) : Bool :=
  s.ordered && !s.entries.isEmpty && (s.entries.length ≠ 1 || s.is_estimation_mode)

/-- The flags byte of `CompactThetaSketch::serialize`. -/
def CompactThetaSketch.serialize_flags (s : CompactThetaSketch) : Nat :=
  ((FLAGS_IS_READ_ONLY ||| FLAGS_IS_COMPACT)
      ||| (if s.is_empty then FLAGS_IS_EMPTY else 0))
    ||| (if s.ordered then FLAGS_IS_ORDERED else 0)

/-- `CompactThetaSketch::serialize` (the uncompressed v3 image). -/
def CompactThetaSketch.serialize (s : CompactThetaSketch) : List Nat :=
  let pre_longs := s.preamble_longs false
  [pre_longs, UNCOMPRESSED_SERIAL_VERSION, THETA_FAMILY_ID]
    ++ u16_be_bytes 0
    ++ [s.serialize_flags]
    ++ u16_le_bytes s.seed_hash
    ++ (if pre_longs > 1 then u32_le_bytes s.entries.length ++ u32_be_bytes 0 else [])
    ++ (if s.is_estimation_mode then u64_le_bytes s.theta else [])
    ++ s.entries.flatMap u64_le_bytes

/-- The delta sequence of `serialize_v4`'s packing loops (and of
`compute_entry_bits`): consecutive differences with a running previous. -/
def deltaList (previous : Nat) : List Nat → List Nat
  | [] => []
  | e :: es => (e - previous) :: deltaList e es

/-- `CompactThetaSketch::compute_entry_bits`: the OR of all deltas, then its
bit width (`64 - leading_zeros`). -/
def compute_entry_bits (entries : List Nat) : Nat :=
  let ored := (deltaList 0 entries).foldl (fun a d => a ||| d) 0
  if ored = 0 then 0 else Nat.log2 ored + 1

/-- `CompactThetaSketch::num_entries_bytes`: bit width of the `u32` count,
rounded up to whole bytes. -/
def num_entries_bytes (num_entries : Nat) : Nat :=
  let bits := if num_entries = 0 then 0 else Nat.log2 num_entries + 1
  (bits + 7) / 8

/-- The count bytes of `serialize_v4`: `num_entries_bytes` little-endian bytes
of the entry count. -/
def countBytes : Nat → Nat → List Nat
  | 0, _ => []
  | k + 1, n => (n % 256) :: countBytes k (n / 256)

/-- The full-block loop of `serialize_v4`: pack each group of 8 deltas with
`pack_bits_block` into a zeroed `entry_bits`-byte block.  `none` marks the
codec assert firing (a Rust panic). -/
def packV4Blocks (entry_bits : Nat) : List Nat → Option (List Nat)
  | d0 :: d1 :: d2 :: d3 :: d4 :: d5 :: d6 :: d7 :: rest =>
    match pack_bits_block [d0, d1, d2, d3, d4, d5, d6, d7]
        (List.replicate entry_bits 0) entry_bits with
    | none => none
    | some block =>
      match packV4Blocks entry_bits rest with
      | none => none
      | some tail => some (block ++ tail)
  | _ => some []

/-- The tail of `serialize_v4`: fewer than 8 deltas packed with `BitPacker`
into a zeroed `entry_bits`-byte block, truncated to `byte_used()`. -/
def packV4Tail (entry_bits : Nat) (deltas : List Nat) : List Nat :=
  if deltas.isEmpty then []
  else
    let st := packSeq (BitPacker.new (List.replicate entry_bits 0))
      (deltas.map (fun d => (d, entry_bits)))
    st.bytes.take st.byte_used

/-- `CompactThetaSketch::serialize_v4`.  `none` when a `pack_bits_block` call
would panic in the codec assert (`entry_bits` outside `1..=63` with a full
block present). -/
def CompactThetaSketch.serialize_v4 (s : CompactThetaSketch) : Option (List Nat) :=
  let pre_longs := s.preamble_longs true
  let entry_bits := compute_entry_bits s.entries
  let neb := num_entries_bytes s.entries.length
  let deltas := deltaList 0 s.entries
  let flags := (FLAGS_IS_READ_ONLY ||| FLAGS_IS_COMPACT) ||| FLAGS_IS_ORDERED
  match packV4Blocks entry_bits (deltas.take (8 * (s.entries.length / 8))) with
  | none => none
  | some blocks =>
    some ([pre_longs, COMPRESSED_SERIAL_VERSION, THETA_FAMILY_ID, entry_bits, neb, flags]
      ++ u16_le_bytes s.seed_hash
      ++ (if s.is_estimation_mode then u64_le_bytes s.theta else [])
      ++ countBytes neb s.entries.length
      ++ blocks
      ++ packV4Tail entry_bits (deltas.drop (8 * (s.entries.length / 8))))

/-- `CompactThetaSketch::serialize_compressed`. -/
def CompactThetaSketch.serialize_compressed (s : CompactThetaSketch) : Option (List Nat) :=
  if s.is_suitable_for_compression then s.serialize_v4 else some s.serialize

/-- `CompactThetaSketch::read_entries`: read `n` little-endian `u64` values,
rejecting `hash == 0 || hash >= theta`. -/
def read_entries (n : Nat) (theta : Nat) (c : List Nat) :
    Except DeserError (List Nat × List Nat) :=
  match n with
  | 0 => .ok ([], c)
  | n + 1 => do
    let (hash, c) ← rdU64le "entries" c
    if hash = 0 ∨ hash ≥ theta then
      .error (.invalidData "corrupted: invalid retained hash value")
    else
      let (rest, c) ← read_entries n theta c
      .ok (hash :: rest, c)

/-- `CompactThetaSketch::deserialize_v1`. -/
def deserialize_v1 (seedHashF : Nat → Nat) (c : List Nat) (expected_seed : Nat) :
    Except DeserError CompactThetaSketch := do
  let seed_hash := seedHashF expected_seed
  let (_, c) ← rdU8 "<unused>" c
  let (_, c) ← rdU32le "<unused_u32_0>" c
  let (num_entries, c) ← rdU32le "num_entries" c
  let (_, c) ← rdU32le "<unused_u32_1>" c
  let (theta, c) ← rdU64le "theta_long" c
  if num_entries = 0 ∧ theta = MAX_THETA then
    .ok { entries := [], theta := theta, seed_hash := seed_hash,
          ordered := true, empty := true }
  else
    let (entries, _) ← read_entries num_entries theta c
    .ok { entries := entries, theta := theta, seed_hash := seed_hash,
          ordered := true, empty := false }

/-- `CompactThetaSketch::deserialize_v2`. -/
def deserialize_v2 (seedHashF : Nat → Nat) (pre_longs : Nat) (c : List Nat)
    (expected_seed : Nat) : Except DeserError CompactThetaSketch := do
  let (_, c) ← rdU8 "<unused>" c
  let (_, c) ← rdU16le "<unused_u16>" c
  let (seed_hash, c) ← rdU16le "seed_hash" c
  if seed_hash ≠ seedHashF expected_seed then
    .error (.invalidData "incompatible seed hash")
  else if pre_longs = V2_PREAMBLE_EMPTY then
    .ok { entries := [], theta := MAX_THETA, seed_hash := seed_hash,
          ordered := true, empty := true }
  else if pre_longs = V2_PREAMBLE_PRECISE then do
    let (num_entries, c) ← rdU32le "num_entries" c
    let (_, c) ← rdU32le "<unused_u32>" c
    let (entries, _) ← read_entries num_entries MAX_THETA c
    .ok { entries := entries, theta := MAX_THETA, seed_hash := seed_hash,
          ordered := true, empty := true }
  else if pre_longs = V2_PREAMBLE_ESTIMATE then do
    let (num_entries, c) ← rdU32le "num_entries" c
    let (_, c) ← rdU32le "<unused_u32>" c
    let (theta, c) ← rdU64le "theta_long" c
    let empty := num_entries = 0 ∧ theta = MAX_THETA
    let (entries, _) ← read_entries num_entries theta c
    .ok { entries := entries, theta := theta, seed_hash := seed_hash,
          ordered := true, empty := empty }
  else
    .error (.invalidData "invalid preamble longs")

/-- `CompactThetaSketch::deserialize_v3`. -/
def deserialize_v3 (seedHashF : Nat → Nat) (pre_longs : Nat) (c : List Nat)
    (expected_seed : Nat) : Except DeserError CompactThetaSketch := do
  let (_, c) ← rdU16le "<unused_u32>" c
  let (flags, c) ← rdU8 "flags" c
  let (seed_hash, c) ← rdU16le "seed_hash" c
  let empty := flags &&& FLAGS_IS_EMPTY ≠ 0
  let ordered := flags &&& FLAGS_IS_ORDERED ≠ 0
  if empty then
    .ok { entries := [], theta := MAX_THETA, seed_hash := seed_hash,
          ordered := ordered, empty := true }
  else if seed_hash ≠ seedHashF expected_seed then
    .error (.invalidData "incompatible seed hash")
  else if pre_longs = 1 then do
    let (entries, _) ← read_entries 1 MAX_THETA c
    .ok { entries := entries, theta := MAX_THETA, seed_hash := seed_hash,
          ordered := ordered, empty := false }
  else do
    let (num_entries, c) ← rdU32le "num_entries" c
    let (_, c) ← rdU32le "<unused_u32>" c
    if pre_longs > 2 then do
      let (theta, c) ← rdU64le "theta_long" c
      let (entries, _) ← read_entries num_entries theta c
      .ok { entries := entries, theta := theta, seed_hash := seed_hash,
            ordered := ordered, empty := false }
    else do
      let (entries, _) ← read_entries num_entries MAX_THETA c
      .ok { entries := entries, theta := MAX_THETA, seed_hash := seed_hash,
            ordered := ordered, empty := false }

/-- The count-byte loop of `deserialize_v4`: read `k` bytes, accumulating
`num_entries |= byte << (8 * i)`. -/
def readCountBytes (k : Nat) (acc shift : Nat) (c : List Nat) :
    Except DeserError (Nat × List Nat) :=
  match k with
  | 0 => .ok (acc, c)
  | k + 1 => do
    let (b, c) ← rdU8 "num_entries_byte" c
    readCountBytes k (acc ||| (b <<< shift)) (shift + 8) c

/-- The full-block loop of `deserialize_v4`: read `k` blocks of `entry_bits`
bytes and unpack 8 deltas from each.  `none` from the codec marks the Rust
panic. -/
def readV4Blocks (entry_bits : Nat) (k : Nat) (c : List Nat) :
    Except DeserError (List Nat × List Nat) :=
  match k with
  | 0 => .ok ([], c)
  | k + 1 => do
    let (block, c) ← rdExact "delta_block" entry_bits c
    match unpack_bits_block (List.replicate 8 0) block entry_bits with
    | none => .error (.panicked "unpack_bits_block assert")
    | some vals => do
      let (rest, c) ← readV4Blocks entry_bits k c
      .ok (vals ++ rest, c)

/-- The tail loop of `deserialize_v4`: unpack `rem` more values with
`BitUnpacker` from the tail bytes. -/
def unpackV4Tail (entry_bits rem : Nat) (tail : List Nat) : List Nat :=
  (unpackSeq (BitUnpacker.new tail) (List.replicate rem entry_bits)).1

/-- The undo-deltas loop of `deserialize_v4`: running wrapping sums, rejecting
any result that is `0` or `≥ theta`. -/
def undoDeltas (previous theta : Nat) : List Nat → Except DeserError (List Nat)
  | [] => .ok []
  | d :: ds =>
    let e := (d + previous) % 2 ^ 64
    if e = 0 ∨ e ≥ theta then
      .error (.invalidData "corrupted: invalid retained hash value")
    else do
      let rest ← undoDeltas e theta ds
      .ok (e :: rest)

/-- `CompactThetaSketch::deserialize_v4`. -/
def deserialize_v4 (seedHashF : Nat → Nat) (pre_longs : Nat) (c : List Nat)
    (expected_seed : Nat) : Except DeserError CompactThetaSketch := do
  let (entry_bits, c) ← rdU8 "entry_bits" c
  let (neb, c) ← rdU8 "num_entries" c
  let (flags, c) ← rdU8 "flags" c
  let (seed_hash, c) ← rdU16le "seed_hash" c
  let empty := flags &&& FLAGS_IS_EMPTY ≠ 0
  if ¬empty ∧ seed_hash ≠ seedHashF expected_seed then
    .error (.invalidData "incompatible seed hash")
  else do
    let (theta, c) ←
      if pre_longs > 1 then rdU64le "theta_long" c else .ok (MAX_THETA, c)
    let (num_entries, c) ← readCountBytes neb 0 0 c
    let (blockDeltas, c) ← readV4Blocks entry_bits (num_entries / 8) c
    let rem := num_entries - 8 * (num_entries / 8)
    let (tailDeltas, _) ←
      if rem > 0 then do
        let bytes_needed := (rem * entry_bits + 7) / 8
        let (tail, c) ← rdExact "delta_tail" bytes_needed c
        (.ok (unpackV4Tail entry_bits rem tail, c) :
          Except DeserError (List Nat × List Nat))
      else .ok ([], c)
    let entries ← undoDeltas 0 theta (blockDeltas ++ tailDeltas)
    let ordered := flags &&& FLAGS_IS_ORDERED ≠ 0
    .ok { entries := entries, theta := theta, seed_hash := seed_hash,
          ordered := ordered, empty := empty }

/-- `CompactThetaSketch::deserialize_with_seed`.  `compute_seed_hash`
(hash.rs, not under `src/`) is abstracted as the parameter `seedHashF`. -/
def CompactThetaSketch.deserialize_with_seed (seedHashF : Nat → Nat)
    (bytes : List Nat) (seed : Nat) : Except DeserError CompactThetaSketch := do
  let (pre_longs, c) ← rdU8 "preamble_longs" bytes
  let (ser_ver, c) ← rdU8 "serial_version" c
  let (family_id, c) ← rdU8 "family_id" c
  if family_id ≠ THETA_FAMILY_ID then
    .error (.invalidData "family mismatch")
  else if pre_longs < THETA_MIN_PRE_LONGS ∨ THETA_MAX_PRE_LONGS < pre_longs then
    .error (.invalidData "invalid preamble longs")
  else if ser_ver = 1 then deserialize_v1 seedHashF c seed
  else if ser_ver = 2 then deserialize_v2 seedHashF pre_longs c seed
  else if ser_ver = 3 then deserialize_v3 seedHashF pre_longs c seed
  else if ser_ver = 4 then deserialize_v4 seedHashF pre_longs c seed
  else .error (.invalidData "unsupported serial version")

/-! ## Claims C3 and C6: the canonical-empty invariant and the seed-hash check -/

/-- C3 (code bug evidence): `deserialize_v2` on a v2 image in PRECISE mode
(`pre_longs = 2`) returns a sketch with `empty = true` that retains entries,
violating the canonical empty state (an empty sketch must retain no entries).
The input is a well-formed 24-byte v2 image with one retained hash value `1`
and a matching seed hash. -/
theorem c3_deserialize_v2_precise_empty_with_entries :
    CompactThetaSketch.deserialize_with_seed (fun _ => 0)
        [2, 2, 3, 0, 0, 0, 0, 0, 1, 0, 0, 0, 0, 0, 0, 0,
          1, 0, 0, 0, 0, 0, 0, 0] 0
      = .ok { entries := [1], theta := MAX_THETA, seed_hash := 0,
              ordered := true, empty := true }
    ∧ (CompactThetaSketch.mk [1] MAX_THETA 0 true true).is_empty = true
    ∧ (CompactThetaSketch.mk [1] MAX_THETA 0 true true).num_retained ≠ 0 := by
  refine ⟨rfl, rfl, by decide⟩

theorem ebind_ok {α β : Type} (a : α) (f : α → Except DeserError β) :
    (Except.ok a : Except DeserError α) >>= f = f a := rfl

theorem pre_longs_range (s : CompactThetaSketch) (c : Bool) :
    ¬(s.preamble_longs c < 1 ∨ 3 < s.preamble_longs c) := by
  unfold CompactThetaSketch.preamble_longs
  repeat' split
  all_goals omega

/-- Deserializing the uncompressed (v3) image of a non-empty sketch under a
mismatching expected seed hash fails with InvalidData at the seed-hash check. -/
theorem deserialize_serialize_seed_mismatch (seedHashF : Nat → Nat)
    (s : CompactThetaSketch) (seed : Nat)
    (hne : s.empty = false) (hsh : s.seed_hash < 2 ^ 16)
    (hmm : seedHashF seed ≠ s.seed_hash) :
    CompactThetaSketch.deserialize_with_seed seedHashF s.serialize seed
      = .error (.invalidData "incompatible seed hash") := by
  have hflags : s.serialize_flags = if s.ordered then 26 else 10 := by
    simp [CompactThetaSketch.serialize_flags, CompactThetaSketch.is_empty, hne,
      FLAGS_IS_READ_ONLY, FLAGS_IS_COMPACT, FLAGS_IS_EMPTY, FLAGS_IS_ORDERED]
    split <;> rfl
  have hsh2 : s.seed_hash % 256 + 256 * (s.seed_hash / 256 % 256) = s.seed_hash := by
    omega
  by_cases ho : s.ordered
  · simp only [CompactThetaSketch.serialize, CompactThetaSketch.deserialize_with_seed,
      deserialize_v3, UNCOMPRESSED_SERIAL_VERSION, THETA_FAMILY_ID,
      THETA_MIN_PRE_LONGS, THETA_MAX_PRE_LONGS, FLAGS_IS_EMPTY, FLAGS_IS_ORDERED,
      u16_be_bytes, u16_le_bytes, List.cons_append, List.nil_append,
      rdU8, rdU16le, hflags, ho, if_true, ebind_ok, pre_longs_range s false,
      if_false, Nat.zero_div, Nat.zero_mod, hsh2]
    rw [if_neg (by decide), if_neg (by decide), if_neg (by decide),
      if_neg (by decide), if_pos (Ne.symm hmm)]
  · simp only [CompactThetaSketch.serialize, CompactThetaSketch.deserialize_with_seed,
      deserialize_v3, UNCOMPRESSED_SERIAL_VERSION, THETA_FAMILY_ID,
      THETA_MIN_PRE_LONGS, THETA_MAX_PRE_LONGS, FLAGS_IS_EMPTY, FLAGS_IS_ORDERED,
      u16_be_bytes, u16_le_bytes, List.cons_append, List.nil_append,
      rdU8, rdU16le, hflags, ho, if_true, ebind_ok, pre_longs_range s false,
      if_false, Nat.zero_div, Nat.zero_mod, hsh2]
    rw [if_neg (by decide), if_neg (by decide), if_neg (by decide),
      if_neg (by decide), if_pos (Ne.symm hmm)]

/-- Deserializing a compressed (v4) image under a mismatching expected seed
hash fails with InvalidData at the seed-hash check (a v4 image is never
empty-flagged). -/
theorem deserialize_v4_image_seed_mismatch (seedHashF : Nat → Nat)
    (s : CompactThetaSketch) (seed : Nat)
    (hsh : s.seed_hash < 2 ^ 16) (hmm : seedHashF seed ≠ s.seed_hash)
    (bs : List Nat) (hbs : s.serialize_v4 = some bs) :
    CompactThetaSketch.deserialize_with_seed seedHashF bs seed
      = .error (.invalidData "incompatible seed hash") := by
  have hsh2 : s.seed_hash % 256 + 256 * (s.seed_hash / 256 % 256) = s.seed_hash := by
    omega
  simp only [CompactThetaSketch.serialize_v4] at hbs
  rcases hpk : packV4Blocks (compute_entry_bits s.entries)
      ((deltaList 0 s.entries).take (8 * (s.entries.length / 8))) with _ | blocks
  · rw [hpk] at hbs
    exact absurd hbs (by simp)
  · rw [hpk] at hbs
    simp only [Option.some.injEq] at hbs
    subst hbs
    simp only [CompactThetaSketch.deserialize_with_seed, deserialize_v4,
      COMPRESSED_SERIAL_VERSION, THETA_FAMILY_ID, THETA_MIN_PRE_LONGS,
      THETA_MAX_PRE_LONGS, FLAGS_IS_READ_ONLY, FLAGS_IS_COMPACT, FLAGS_IS_EMPTY,
      FLAGS_IS_ORDERED, u16_le_bytes, List.cons_append, List.nil_append,
      rdU8, rdU16le, ebind_ok, pre_longs_range s true, if_false, hsh2]
    rw [if_neg (by decide), if_neg (by decide), if_neg (by decide),
      if_neg (by decide), if_pos (by decide), if_pos ⟨by decide, Ne.symm hmm⟩]

/-- C6: for every non-empty compact Theta sketch (with a 16-bit stored seed
hash) and every expected seed whose hash differs from the stored one,
`deserialize_with_seed` rejects both the `serialize` image and any
`serialize_compressed` image with an InvalidData error, producing no sketch. -/
theorem c6_seed_hash_mismatch_rejected (seedHashF : Nat → Nat)
    (s : CompactThetaSketch) (seed : Nat)
    (hne : s.empty = false) (hsh : s.seed_hash < 2 ^ 16)
    (hmm : seedHashF seed ≠ s.seed_hash) :
    CompactThetaSketch.deserialize_with_seed seedHashF s.serialize seed
        = .error (.invalidData "incompatible seed hash")
    ∧ ∀ bs, s.serialize_compressed = some bs →
        CompactThetaSketch.deserialize_with_seed seedHashF bs seed
          = .error (.invalidData "incompatible seed hash") := by
  refine ⟨deserialize_serialize_seed_mismatch seedHashF s seed hne hsh hmm,
    fun bs hbs => ?_⟩
  unfold CompactThetaSketch.serialize_compressed at hbs
  split at hbs
  · exact deserialize_v4_image_seed_mismatch seedHashF s seed hsh hmm bs hbs
  · simp only [Option.some.injEq] at hbs
    subst hbs
    exact deserialize_serialize_seed_mismatch seedHashF s seed hne hsh hmm

/-- Witness for C6: the sketch `⟨[1], MAX_THETA, 5, true, false⟩` with seed
hash function constantly `7`. -/
theorem c6_seed_hash_mismatch_rejected_witness :
    CompactThetaSketch.deserialize_with_seed (fun _ => 7)
        (CompactThetaSketch.serialize ⟨[1], MAX_THETA, 5, true, false⟩) 0
        = .error (.invalidData "incompatible seed hash")
    ∧ ∀ bs,
        CompactThetaSketch.serialize_compressed ⟨[1], MAX_THETA, 5, true, false⟩
          = some bs →
        CompactThetaSketch.deserialize_with_seed (fun _ => 7) bs 0
          = .error (.invalidData "incompatible seed hash") :=
  c6_seed_hash_mismatch_rejected (fun _ => 7) ⟨[1], MAX_THETA, 5, true, false⟩ 0
    (by decide) (by decide) (by decide)

/-! ## Claim C1: the compact Theta serialization round trip -/

theorem ebind_ok2 {α β : Type} (a : α) (f : α → Except DeserError β) :
    (Except.ok a : Except DeserError α) >>= f = f a := rfl

theorem rdU32le_bytes (tag : String) (n : Nat) (r : List Nat) (h : n < 2 ^ 32) :
    rdU32le tag (u32_le_bytes n ++ r) = .ok (n, r) := by
  simp [u32_le_bytes, rdU32le]
  omega

theorem rdU64le_bytes (tag : String) (n : Nat) (r : List Nat) (h : n < 2 ^ 64) :
    rdU64le tag (u64_le_bytes n ++ r) = .ok (n, r) := by
  simp [u64_le_bytes, rdU64le]
  omega

theorem read_entries_flatMap (theta : Nat) : ∀ (es : List Nat) (r : List Nat),
    (∀ e ∈ es, 0 < e ∧ e < theta) → (∀ e ∈ es, e < 2 ^ 64) →
    read_entries es.length theta (es.flatMap u64_le_bytes ++ r) = .ok (es, r) := by
  intro es
  induction es with
  | nil => intro r _ _; simp [read_entries]
  | cons e es ih =>
    intro r hval h64
    have he := hval e (by simp)
    rw [List.flatMap_cons, List.append_assoc]
    show read_entries (es.length + 1) theta _ = _
    rw [read_entries]
    rw [rdU64le_bytes _ _ _ (h64 e (by simp)), ebind_ok2]
    dsimp only
    rw [if_neg (by omega)]
    rw [ih r (fun x hx => hval x (by simp [hx])) (fun x hx => h64 x (by simp [hx])),
      ebind_ok2]

theorem pre_longs_range2 (s : CompactThetaSketch) (c : Bool) :
    ¬(s.preamble_longs c < 1 ∨ 3 < s.preamble_longs c) := by
  unfold CompactThetaSketch.preamble_longs
  repeat' split
  all_goals omega

theorem deserialize_serialize_v3 (seedHashF : Nat → Nat)
    (s : CompactThetaSketch) (seed : Nat)
    (hsh : s.seed_hash < 2 ^ 16) (hseed : seedHashF seed = s.seed_hash)
    (htheta : s.theta ≤ MAX_THETA)
    (hval : ∀ e ∈ s.entries, 0 < e ∧ e < s.theta)
    (hlen : s.entries.length < 2 ^ 32)
    (hempty : s.empty = true → s.entries = [] ∧ s.theta = MAX_THETA) :
    CompactThetaSketch.deserialize_with_seed seedHashF s.serialize seed = .ok s := by
  have hsh2 : s.seed_hash % 256 + 256 * (s.seed_hash / 256 % 256) = s.seed_hash := by
    omega
  have h64 : ∀ e ∈ s.entries, e < 2 ^ 64 := by
    intro e he
    have := (hval e he).2
    unfold MAX_THETA at htheta
    omega
  by_cases hEm : s.empty
  · -- canonical empty: pre_longs 1, flags include the empty bit
    obtain ⟨hent, hth⟩ := hempty hEm
    have hest : s.is_estimation_mode = false := by
      simp [CompactThetaSketch.is_estimation_mode, hth]
    have hpre : s.preamble_longs false = 1 := by
      simp [CompactThetaSketch.preamble_longs, hest, CompactThetaSketch.is_empty, hEm]
    by_cases ho : s.ordered
    · have hflags : s.serialize_flags = 30 := by
        simp [CompactThetaSketch.serialize_flags, CompactThetaSketch.is_empty, hEm,
          ho, FLAGS_IS_READ_ONLY, FLAGS_IS_COMPACT, FLAGS_IS_EMPTY, FLAGS_IS_ORDERED]
      simp only [CompactThetaSketch.serialize, CompactThetaSketch.deserialize_with_seed,
        deserialize_v3, UNCOMPRESSED_SERIAL_VERSION, THETA_FAMILY_ID,
        THETA_MIN_PRE_LONGS, THETA_MAX_PRE_LONGS, FLAGS_IS_EMPTY, FLAGS_IS_ORDERED,
        u16_be_bytes, u16_le_bytes, List.cons_append, List.nil_append,
        rdU8, rdU16le, hflags, hpre, hest, hEm, ebind_ok2,
        Nat.zero_div, Nat.zero_mod, hsh2, hent]
      rw [if_neg (by decide), if_neg (by decide), if_neg (by decide),
        if_neg (by decide), if_pos (by decide)]
      rw [if_pos (by decide)]
      cases s with
      | mk entries theta seed_hash ordered empty =>
        cases hent; cases hth; cases hEm; cases ho
        simp [MAX_THETA]
    · have hflags : s.serialize_flags = 14 := by
        simp [CompactThetaSketch.serialize_flags, CompactThetaSketch.is_empty, hEm,
          ho, FLAGS_IS_READ_ONLY, FLAGS_IS_COMPACT, FLAGS_IS_EMPTY, FLAGS_IS_ORDERED]
      simp only [CompactThetaSketch.serialize, CompactThetaSketch.deserialize_with_seed,
        deserialize_v3, UNCOMPRESSED_SERIAL_VERSION, THETA_FAMILY_ID,
        THETA_MIN_PRE_LONGS, THETA_MAX_PRE_LONGS, FLAGS_IS_EMPTY, FLAGS_IS_ORDERED,
        u16_be_bytes, u16_le_bytes, List.cons_append, List.nil_append,
        rdU8, rdU16le, hflags, hpre, hest, hEm, ebind_ok2,
        Nat.zero_div, Nat.zero_mod, hsh2, hent]
      rw [if_neg (by decide), if_neg (by decide), if_neg (by decide),
        if_neg (by decide), if_pos (by decide)]
      rw [if_pos (by decide)]
      cases s with
      | mk entries theta seed_hash ordered empty =>
        cases hent; cases hth; cases hEm
        simp only [Bool.not_eq_true] at ho
        cases ho
        simp [MAX_THETA]
        all_goals decide
  · -- non-empty: seed-hash check passes, entries are read back
    have hEmf : s.empty = false := by
      simpa using hEm
    have hb4 : s.serialize_flags &&& 4 = 0 := by
      unfold CompactThetaSketch.serialize_flags
      simp [CompactThetaSketch.is_empty, hEmf, FLAGS_IS_READ_ONLY,
        FLAGS_IS_COMPACT, FLAGS_IS_EMPTY, FLAGS_IS_ORDERED]
      split <;> decide
    have hb16 : decide (s.serialize_flags &&& 16 ≠ 0) = s.ordered := by
      unfold CompactThetaSketch.serialize_flags
      rcases ho : s.ordered with _ | _ <;>
        simp [CompactThetaSketch.is_empty, hEmf, ho, FLAGS_IS_READ_ONLY,
          FLAGS_IS_COMPACT, FLAGS_IS_EMPTY, FLAGS_IS_ORDERED] <;>
        decide
    have hre : ∀ theta2, (∀ e ∈ s.entries, 0 < e ∧ e < theta2) →
        read_entries s.entries.length theta2 (s.entries.flatMap u64_le_bytes)
          = .ok (s.entries, []) := by
      intro theta2 hv2
      have := read_entries_flatMap theta2 s.entries [] hv2 h64
      simpa using this
    by_cases hE : s.is_estimation_mode = true
    · -- estimation mode: pre_longs 3, theta is written and read back
      have hpre : s.preamble_longs false = 3 := by
        simp [CompactThetaSketch.preamble_longs, hE]
      have hth64 : s.theta < 2 ^ 64 := by
        unfold MAX_THETA at htheta
        omega
      simp only [CompactThetaSketch.serialize, CompactThetaSketch.deserialize_with_seed,
        deserialize_v3, UNCOMPRESSED_SERIAL_VERSION, THETA_FAMILY_ID,
        THETA_MIN_PRE_LONGS, THETA_MAX_PRE_LONGS, FLAGS_IS_EMPTY, FLAGS_IS_ORDERED,
        u16_be_bytes, u16_le_bytes, List.cons_append, List.nil_append,
        List.append_assoc, rdU8, rdU16le, hpre, hE, if_true, ebind_ok2,
        Nat.zero_div, Nat.zero_mod, hsh2]
      rw [if_neg (by decide), if_neg (by decide), if_neg (by decide),
        if_neg (by decide),
        if_neg (show ¬(s.serialize_flags &&& 4 ≠ 0) by simp [hb4]),
        if_neg (show ¬(s.seed_hash ≠ seedHashF seed) by simp [hseed]),
        if_neg (by decide), if_pos (by decide),
        List.append_assoc, rdU32le_bytes _ _ _ hlen, ebind_ok2]
      dsimp only
      rw [show rdU32le "<unused_u32>" (u32_be_bytes 0 ++
          (u64_le_bytes s.theta ++ s.entries.flatMap u64_le_bytes))
          = .ok (0, u64_le_bytes s.theta ++ s.entries.flatMap u64_le_bytes) from rfl,
        ebind_ok2]
      dsimp only
      rw [if_pos (by decide), rdU64le_bytes _ _ _ hth64, ebind_ok2]
      dsimp only
      rw [hre s.theta hval, ebind_ok2]
      dsimp only
      rw [hb16]
      exact congrArg Except.ok (by
        cases s with
        | mk entries theta seed_hash ordered empty =>
          simp only at hEmf ⊢
          rw [hEmf])
    · have hEf : s.is_estimation_mode = false := by simpa using hE
      have hthM : s.theta = MAX_THETA := by
        have := htheta
        unfold CompactThetaSketch.is_estimation_mode at hEf
        simp only [decide_eq_false_iff_not, Nat.not_lt] at hEf
        omega
      by_cases hl1 : s.entries.length = 1
      · -- single-entry exact mode: pre_longs 1, bare entry body
        obtain ⟨e, hent⟩ : ∃ e, s.entries = [e] := by
          cases hent : s.entries with
          | nil => simp [hent] at hl1
          | cons a t =>
            cases t with
            | nil => exact ⟨a, rfl⟩
            | cons b t2 => simp [hent] at hl1
        have hpre : s.preamble_longs false = 1 := by
          simp [CompactThetaSketch.preamble_longs, hEf, hl1]
        simp only [CompactThetaSketch.serialize, CompactThetaSketch.deserialize_with_seed,
          deserialize_v3, UNCOMPRESSED_SERIAL_VERSION, THETA_FAMILY_ID,
          THETA_MIN_PRE_LONGS, THETA_MAX_PRE_LONGS, FLAGS_IS_EMPTY, FLAGS_IS_ORDERED,
          u16_be_bytes, u16_le_bytes, List.cons_append, List.nil_append,
          rdU8, rdU16le, hpre, hEf, ebind_ok2, Nat.zero_div, Nat.zero_mod, hsh2,
          Bool.false_eq_true, if_false]
        rw [if_neg (by decide), if_neg (by decide), if_neg (by decide),
          if_neg (by decide),
          if_neg (show ¬(s.serialize_flags &&& 4 ≠ 0) by simp [hb4]),
          if_neg (show ¬(s.seed_hash ≠ seedHashF seed) by simp [hseed]),
          if_pos (by decide)]
        have hre1 : read_entries 1 MAX_THETA (s.entries.flatMap u64_le_bytes)
            = .ok (s.entries, []) :=
          hl1 ▸ hre MAX_THETA (fun x hx => by
            have := hval x hx
            omega)
        rw [if_pos trivial, if_neg (by decide)]
        simp only [List.nil_append, List.append_nil]
        rw [hre1, ebind_ok2]
        dsimp only
        rw [hb16]
        exact congrArg Except.ok (by
          cases s with
          | mk entries theta seed_hash ordered empty =>
            simp only at hEmf hthM ⊢
            rw [hEmf, hthM])
      · -- exact mode with a count: pre_longs 2
        have hpre : s.preamble_longs false = 2 := by
          simp [CompactThetaSketch.preamble_longs, hEf, hl1,
            CompactThetaSketch.is_empty, hEmf]
        simp only [CompactThetaSketch.serialize, CompactThetaSketch.deserialize_with_seed,
          deserialize_v3, UNCOMPRESSED_SERIAL_VERSION, THETA_FAMILY_ID,
          THETA_MIN_PRE_LONGS, THETA_MAX_PRE_LONGS, FLAGS_IS_EMPTY, FLAGS_IS_ORDERED,
          u16_be_bytes, u16_le_bytes, List.cons_append, List.nil_append,
          rdU8, rdU16le, hpre, hEf, ebind_ok2, Nat.zero_div, Nat.zero_mod, hsh2,
          Bool.false_eq_true, if_false]
        rw [if_neg (by decide), if_neg (by decide), if_neg (by decide),
          if_neg (by decide), if_pos trivial,
          if_neg (show ¬(s.serialize_flags &&& 4 ≠ 0) by simp [hb4]),
          if_neg (show ¬(s.seed_hash ≠ seedHashF seed) by simp [hseed]),
          if_neg (by decide), if_pos (by decide)]
        simp only [List.append_nil, List.append_assoc]
        rw [rdU32le_bytes _ _ _ hlen, ebind_ok2]
        dsimp only
        rw [show rdU32le "<unused_u32>" (u32_be_bytes 0 ++ s.entries.flatMap u64_le_bytes)
            = .ok (0, s.entries.flatMap u64_le_bytes) from rfl, ebind_ok2]
        dsimp only
        rw [if_neg (by decide)]
        rw [hre MAX_THETA (fun x hx => by
          have := hval x hx
          omega), ebind_ok2]
        dsimp only
        rw [hb16]
        exact congrArg Except.ok (by
          cases s with
          | mk entries theta seed_hash ordered empty =>
            simp only at hEmf hthM ⊢
            rw [hEmf, hthM])

theorem shift_byte_merge (n shift : Nat) :
    ((n % 256) <<< shift) ||| ((n / 256) <<< (shift + 8)) = n <<< shift := by
  rw [Nat.shiftLeft_eq, Nat.shiftLeft_eq, Nat.shiftLeft_eq, Nat.lor_comm]
  rw [lor_eq_add (n / 256 * 2 ^ (shift + 8)) (n % 256 * 2 ^ shift) (shift + 8)
    (Nat.mul_mod_left _ _) ?hy]
  · have h1 : n / 256 * 2 ^ (shift + 8) + n % 256 * 2 ^ shift
        = (256 * (n / 256) + n % 256) * 2 ^ shift := by
      rw [Nat.pow_add]
      ring
    rw [h1]
    congr 1
    omega
  case hy =>
    have h2 : n % 256 < 256 := Nat.mod_lt _ (by norm_num)
    calc n % 256 * 2 ^ shift < 256 * 2 ^ shift :=
          Nat.mul_lt_mul_of_lt_of_le h2 (le_refl _) (by positivity)
      _ = 2 ^ (shift + 8) := by rw [Nat.pow_add]; ring

theorem readCountBytes_spec : ∀ (k acc shift n : Nat) (r : List Nat),
    n < 2 ^ (8 * k) →
    readCountBytes k acc shift (countBytes k n ++ r)
      = .ok (acc ||| n <<< shift, r) := by
  intro k
  induction k with
  | zero =>
    intro acc shift n r hn
    have hz : n = 0 := by omega
    subst hz
    simp [readCountBytes, countBytes, Nat.zero_shiftLeft]
  | succ k ih =>
    intro acc shift n r hn
    rw [countBytes]
    show readCountBytes (k + 1) acc shift _ = _
    rw [readCountBytes]
    rw [show rdU8 "num_entries_byte" ((n % 256 :: countBytes k (n / 256)) ++ r)
        = .ok (n % 256, countBytes k (n / 256) ++ r) from rfl]
    rw [ebind_ok2]
    dsimp only
    have hquot : n / 256 < 2 ^ (8 * k) := by
      have h2 : (2:Nat) ^ (8 * (k + 1)) = 2 ^ (8 * k) * 256 := by
        rw [show 8 * (k + 1) = 8 * k + 8 by omega, Nat.pow_add]
      rw [h2] at hn
      omega
    rw [ih _ _ _ _ hquot, Nat.lor_assoc, shift_byte_merge]

theorem le_foldl_lor (l : List Nat) : ∀ (a : Nat),
    (a ≤ l.foldl (fun x d => x ||| d) a) ∧
    ∀ x ∈ l, x ≤ l.foldl (fun x d => x ||| d) a := by
  induction l with
  | nil => intro a; exact ⟨le_refl _, by simp⟩
  | cons d l ih =>
    intro a
    have h1 : a ≤ a ||| d := Nat.le_of_testBit (fun i hi => by
      rw [Nat.testBit_or, hi, Bool.true_or])
    have h2 : d ≤ a ||| d := Nat.le_of_testBit (fun i hi => by
      rw [Nat.testBit_or, hi, Bool.or_true])
    obtain ⟨hacc, hmem⟩ := ih (a ||| d)
    refine ⟨le_trans h1 hacc, ?_⟩
    intro x hx
    rcases List.mem_cons.mp hx with rfl | hx2
    · exact le_trans h2 hacc
    · exact hmem x hx2

theorem lt_pow_compute_entry_bits (entries : List Nat) (d : Nat)
    (hd : d ∈ deltaList 0 entries) : d < 2 ^ compute_entry_bits entries := by
  unfold compute_entry_bits
  have hle := (le_foldl_lor (deltaList 0 entries) 0).2 d hd
  set ored := (deltaList 0 entries).foldl (fun a d => a ||| d) 0 with hored
  by_cases h0 : ored = 0
  · rw [if_pos h0]
    omega
  · rw [if_neg h0]
    have := Nat.lt_log2_self (n := ored)
    omega

theorem rdExact_append (tag : String) (l r : List Nat) :
    rdExact tag l.length (l ++ r) = .ok (l, r) := by
  unfold rdExact
  rw [if_pos (by simp)]
  rw [List.take_left, List.drop_left]

theorem rdExact_len (tag : String) (n : Nat) (l r : List Nat) (h : l.length = n) :
    rdExact tag n (l ++ r) = .ok (l, r) := by
  subst h
  exact rdExact_append _ _ _

theorem rdExact_self (tag : String) (n : Nat) (l : List Nat) (h : l.length = n) :
    rdExact tag n l = .ok (l, []) := by
  subst h
  unfold rdExact
  rw [if_pos (le_refl _)]
  simp

theorem undoDeltas_deltaList (theta : Nat) : ∀ (es : List Nat) (prev : Nat),
    (∀ e ∈ es, 0 < e ∧ e < theta) → (∀ e ∈ es, e < 2 ^ 64) →
    List.Chain (· ≤ ·) prev es →
    undoDeltas prev theta (deltaList prev es) = .ok es := by
  intro es
  induction es with
  | nil => intro prev _ _ _; rfl
  | cons e es ih =>
    intro prev hval h64 hch
    rcases hch with _ | ⟨hpe, hch2⟩
    rw [deltaList, undoDeltas]
    have he : (e - prev + prev) % 2 ^ 64 = e := by
      rw [Nat.sub_add_cancel hpe]
      exact Nat.mod_eq_of_lt (h64 e (by simp))
    rw [he]
    rw [if_neg (by
      have := hval e (by simp)
      omega)]
    rw [ih e (fun x hx => hval x (by simp [hx])) (fun x hx => h64 x (by simp [hx])) hch2]
    rfl

theorem chain_le_of_pairwise_lt (es : List Nat)
    (h : List.Pairwise (· < ·) es) : List.Chain (· ≤ ·) 0 es := by
  rw [List.chain_iff_pairwise]
  exact List.Pairwise.cons (fun x _ => Nat.zero_le x) (h.imp Nat.le_of_lt)

theorem packBitsExpanded_length (bits v0 v1 v2 v3 v4 v5 v6 v7 : Nat)
    (h1 : 1 ≤ bits) (h2 : bits ≤ 63) :
    (packBitsExpanded bits v0 v1 v2 v3 v4 v5 v6 v7).length = bits := by
  interval_cases bits <;> rfl

theorem unpack_pack_expanded (bits v0 v1 v2 v3 v4 v5 v6 v7 : Nat)
    (h1 : 1 ≤ bits) (h2 : bits ≤ 63)
    (hv0 : v0 < 2 ^ bits) (hv1 : v1 < 2 ^ bits) (hv2 : v2 < 2 ^ bits)
    (hv3 : v3 < 2 ^ bits) (hv4 : v4 < 2 ^ bits) (hv5 : v5 < 2 ^ bits)
    (hv6 : v6 < 2 ^ bits) (hv7 : v7 < 2 ^ bits) :
    unpackBitsExpanded bits (packBitsExpanded bits v0 v1 v2 v3 v4 v5 v6 v7)
      = [v0, v1, v2, v3, v4, v5, v6, v7] := by
  interval_cases bits
  · exact unpack_pack_bits_1 v0 v1 v2 v3 v4 v5 v6 v7 hv0 hv1 hv2 hv3 hv4 hv5 hv6 hv7
  · exact unpack_pack_bits_2 v0 v1 v2 v3 v4 v5 v6 v7 hv0 hv1 hv2 hv3 hv4 hv5 hv6 hv7
  · exact unpack_pack_bits_3 v0 v1 v2 v3 v4 v5 v6 v7 hv0 hv1 hv2 hv3 hv4 hv5 hv6 hv7
  · exact unpack_pack_bits_4 v0 v1 v2 v3 v4 v5 v6 v7 hv0 hv1 hv2 hv3 hv4 hv5 hv6 hv7
  · exact unpack_pack_bits_5 v0 v1 v2 v3 v4 v5 v6 v7 hv0 hv1 hv2 hv3 hv4 hv5 hv6 hv7
  · exact unpack_pack_bits_6 v0 v1 v2 v3 v4 v5 v6 v7 hv0 hv1 hv2 hv3 hv4 hv5 hv6 hv7
  · exact unpack_pack_bits_7 v0 v1 v2 v3 v4 v5 v6 v7 hv0 hv1 hv2 hv3 hv4 hv5 hv6 hv7
  · exact unpack_pack_bits_8 v0 v1 v2 v3 v4 v5 v6 v7 hv0 hv1 hv2 hv3 hv4 hv5 hv6 hv7
  · exact unpack_pack_bits_9 v0 v1 v2 v3 v4 v5 v6 v7 hv0 hv1 hv2 hv3 hv4 hv5 hv6 hv7
  · exact unpack_pack_bits_10 v0 v1 v2 v3 v4 v5 v6 v7 hv0 hv1 hv2 hv3 hv4 hv5 hv6 hv7
  · exact unpack_pack_bits_11 v0 v1 v2 v3 v4 v5 v6 v7 hv0 hv1 hv2 hv3 hv4 hv5 hv6 hv7
  · exact unpack_pack_bits_12 v0 v1 v2 v3 v4 v5 v6 v7 hv0 hv1 hv2 hv3 hv4 hv5 hv6 hv7
  · exact unpack_pack_bits_13 v0 v1 v2 v3 v4 v5 v6 v7 hv0 hv1 hv2 hv3 hv4 hv5 hv6 hv7
  · exact unpack_pack_bits_14 v0 v1 v2 v3 v4 v5 v6 v7 hv0 hv1 hv2 hv3 hv4 hv5 hv6 hv7
  · exact unpack_pack_bits_15 v0 v1 v2 v3 v4 v5 v6 v7 hv0 hv1 hv2 hv3 hv4 hv5 hv6 hv7
  · exact unpack_pack_bits_16 v0 v1 v2 v3 v4 v5 v6 v7 hv0 hv1 hv2 hv3 hv4 hv5 hv6 hv7
  · exact unpack_pack_bits_17 v0 v1 v2 v3 v4 v5 v6 v7 hv0 hv1 hv2 hv3 hv4 hv5 hv6 hv7
  · exact unpack_pack_bits_18 v0 v1 v2 v3 v4 v5 v6 v7 hv0 hv1 hv2 hv3 hv4 hv5 hv6 hv7
  · exact unpack_pack_bits_19 v0 v1 v2 v3 v4 v5 v6 v7 hv0 hv1 hv2 hv3 hv4 hv5 hv6 hv7
  · exact unpack_pack_bits_20 v0 v1 v2 v3 v4 v5 v6 v7 hv0 hv1 hv2 hv3 hv4 hv5 hv6 hv7
  · exact unpack_pack_bits_21 v0 v1 v2 v3 v4 v5 v6 v7 hv0 hv1 hv2 hv3 hv4 hv5 hv6 hv7
  · exact unpack_pack_bits_22 v0 v1 v2 v3 v4 v5 v6 v7 hv0 hv1 hv2 hv3 hv4 hv5 hv6 hv7
  · exact unpack_pack_bits_23 v0 v1 v2 v3 v4 v5 v6 v7 hv0 hv1 hv2 hv3 hv4 hv5 hv6 hv7
  · exact unpack_pack_bits_24 v0 v1 v2 v3 v4 v5 v6 v7 hv0 hv1 hv2 hv3 hv4 hv5 hv6 hv7
  · exact unpack_pack_bits_25 v0 v1 v2 v3 v4 v5 v6 v7 hv0 hv1 hv2 hv3 hv4 hv5 hv6 hv7
  · exact unpack_pack_bits_26 v0 v1 v2 v3 v4 v5 v6 v7 hv0 hv1 hv2 hv3 hv4 hv5 hv6 hv7
  · exact unpack_pack_bits_27 v0 v1 v2 v3 v4 v5 v6 v7 hv0 hv1 hv2 hv3 hv4 hv5 hv6 hv7
  · exact unpack_pack_bits_28 v0 v1 v2 v3 v4 v5 v6 v7 hv0 hv1 hv2 hv3 hv4 hv5 hv6 hv7
  · exact unpack_pack_bits_29 v0 v1 v2 v3 v4 v5 v6 v7 hv0 hv1 hv2 hv3 hv4 hv5 hv6 hv7
  · exact unpack_pack_bits_30 v0 v1 v2 v3 v4 v5 v6 v7 hv0 hv1 hv2 hv3 hv4 hv5 hv6 hv7
  · exact unpack_pack_bits_31 v0 v1 v2 v3 v4 v5 v6 v7 hv0 hv1 hv2 hv3 hv4 hv5 hv6 hv7
  · exact unpack_pack_bits_32 v0 v1 v2 v3 v4 v5 v6 v7 hv0 hv1 hv2 hv3 hv4 hv5 hv6 hv7
  · exact unpack_pack_bits_33 v0 v1 v2 v3 v4 v5 v6 v7 hv0 hv1 hv2 hv3 hv4 hv5 hv6 hv7
  · exact unpack_pack_bits_34 v0 v1 v2 v3 v4 v5 v6 v7 hv0 hv1 hv2 hv3 hv4 hv5 hv6 hv7
  · exact unpack_pack_bits_35 v0 v1 v2 v3 v4 v5 v6 v7 hv0 hv1 hv2 hv3 hv4 hv5 hv6 hv7
  · exact unpack_pack_bits_36 v0 v1 v2 v3 v4 v5 v6 v7 hv0 hv1 hv2 hv3 hv4 hv5 hv6 hv7
  · exact unpack_pack_bits_37 v0 v1 v2 v3 v4 v5 v6 v7 hv0 hv1 hv2 hv3 hv4 hv5 hv6 hv7
  · exact unpack_pack_bits_38 v0 v1 v2 v3 v4 v5 v6 v7 hv0 hv1 hv2 hv3 hv4 hv5 hv6 hv7
  · exact unpack_pack_bits_39 v0 v1 v2 v3 v4 v5 v6 v7 hv0 hv1 hv2 hv3 hv4 hv5 hv6 hv7
  · exact unpack_pack_bits_40 v0 v1 v2 v3 v4 v5 v6 v7 hv0 hv1 hv2 hv3 hv4 hv5 hv6 hv7
  · exact unpack_pack_bits_41 v0 v1 v2 v3 v4 v5 v6 v7 hv0 hv1 hv2 hv3 hv4 hv5 hv6 hv7
  · exact unpack_pack_bits_42 v0 v1 v2 v3 v4 v5 v6 v7 hv0 hv1 hv2 hv3 hv4 hv5 hv6 hv7
  · exact unpack_pack_bits_43 v0 v1 v2 v3 v4 v5 v6 v7 hv0 hv1 hv2 hv3 hv4 hv5 hv6 hv7
  · exact unpack_pack_bits_44 v0 v1 v2 v3 v4 v5 v6 v7 hv0 hv1 hv2 hv3 hv4 hv5 hv6 hv7
  · exact unpack_pack_bits_45 v0 v1 v2 v3 v4 v5 v6 v7 hv0 hv1 hv2 hv3 hv4 hv5 hv6 hv7
  · exact unpack_pack_bits_46 v0 v1 v2 v3 v4 v5 v6 v7 hv0 hv1 hv2 hv3 hv4 hv5 hv6 hv7
  · exact unpack_pack_bits_47 v0 v1 v2 v3 v4 v5 v6 v7 hv0 hv1 hv2 hv3 hv4 hv5 hv6 hv7
  · exact unpack_pack_bits_48 v0 v1 v2 v3 v4 v5 v6 v7 hv0 hv1 hv2 hv3 hv4 hv5 hv6 hv7
  · exact unpack_pack_bits_49 v0 v1 v2 v3 v4 v5 v6 v7 hv0 hv1 hv2 hv3 hv4 hv5 hv6 hv7
  · exact unpack_pack_bits_50 v0 v1 v2 v3 v4 v5 v6 v7 hv0 hv1 hv2 hv3 hv4 hv5 hv6 hv7
  · exact unpack_pack_bits_51 v0 v1 v2 v3 v4 v5 v6 v7 hv0 hv1 hv2 hv3 hv4 hv5 hv6 hv7
  · exact unpack_pack_bits_52 v0 v1 v2 v3 v4 v5 v6 v7 hv0 hv1 hv2 hv3 hv4 hv5 hv6 hv7
  · exact unpack_pack_bits_53 v0 v1 v2 v3 v4 v5 v6 v7 hv0 hv1 hv2 hv3 hv4 hv5 hv6 hv7
  · exact unpack_pack_bits_54 v0 v1 v2 v3 v4 v5 v6 v7 hv0 hv1 hv2 hv3 hv4 hv5 hv6 hv7
  · exact unpack_pack_bits_55 v0 v1 v2 v3 v4 v5 v6 v7 hv0 hv1 hv2 hv3 hv4 hv5 hv6 hv7
  · exact unpack_pack_bits_56 v0 v1 v2 v3 v4 v5 v6 v7 hv0 hv1 hv2 hv3 hv4 hv5 hv6 hv7
  · exact unpack_pack_bits_57 v0 v1 v2 v3 v4 v5 v6 v7 hv0 hv1 hv2 hv3 hv4 hv5 hv6 hv7
  · exact unpack_pack_bits_58 v0 v1 v2 v3 v4 v5 v6 v7 hv0 hv1 hv2 hv3 hv4 hv5 hv6 hv7
  · exact unpack_pack_bits_59 v0 v1 v2 v3 v4 v5 v6 v7 hv0 hv1 hv2 hv3 hv4 hv5 hv6 hv7
  · exact unpack_pack_bits_60 v0 v1 v2 v3 v4 v5 v6 v7 hv0 hv1 hv2 hv3 hv4 hv5 hv6 hv7
  · exact unpack_pack_bits_61 v0 v1 v2 v3 v4 v5 v6 v7 hv0 hv1 hv2 hv3 hv4 hv5 hv6 hv7
  · exact unpack_pack_bits_62 v0 v1 v2 v3 v4 v5 v6 v7 hv0 hv1 hv2 hv3 hv4 hv5 hv6 hv7
  · exact unpack_pack_bits_63 v0 v1 v2 v3 v4 v5 v6 v7 hv0 hv1 hv2 hv3 hv4 hv5 hv6 hv7

theorem readV4Blocks_of_pack (eb : Nat) (h1 : 1 ≤ eb) (h2 : eb ≤ 63) :
    ∀ (k : Nat) (ds r blocks : List Nat), ds.length = 8 * k →
    (∀ d ∈ ds, d < 2 ^ eb) →
    packV4Blocks eb ds = some blocks →
    readV4Blocks eb k (blocks ++ r) = .ok (ds, r) := by
  intro k
  induction k with
  | zero =>
    intro ds r blocks hlen hv hpk
    have hds : ds = [] := List.eq_nil_of_length_eq_zero (by omega)
    subst hds
    simp only [packV4Blocks, Option.some.injEq] at hpk
    subst hpk
    rfl
  | succ k ih =>
    intro ds r blocks hlen hv hpk
    rcases ds with _ | ⟨d0, ds⟩; · simp at hlen
    rcases ds with _ | ⟨d1, ds⟩; · simp at hlen; omega
    rcases ds with _ | ⟨d2, ds⟩; · simp at hlen; omega
    rcases ds with _ | ⟨d3, ds⟩; · simp at hlen; omega
    rcases ds with _ | ⟨d4, ds⟩; · simp at hlen; omega
    rcases ds with _ | ⟨d5, ds⟩; · simp at hlen; omega
    rcases ds with _ | ⟨d6, ds⟩; · simp at hlen; omega
    rcases ds with _ | ⟨d7, rest⟩; · simp at hlen; omega
    have hguard : ([d0, d1, d2, d3, d4, d5, d6, d7] : List Nat).length = 8 ∧ 1 ≤ eb ∧ eb ≤ 63
        ∧ (List.replicate eb (0:Nat)).length < eb * 8 ∧ eb ≤ (List.replicate eb (0:Nat)).length := by
      refine ⟨rfl, h1, h2, ?_, ?_⟩ <;> simp [List.length_replicate] <;> omega
    have hpk0 : pack_bits_block [d0, d1, d2, d3, d4, d5, d6, d7] (List.replicate eb 0) eb
        = some (packBitsExpanded eb d0 d1 d2 d3 d4 d5 d6 d7) := by
      unfold pack_bits_block
      rw [if_pos hguard]
      simp [List.drop_replicate]
    rw [packV4Blocks, hpk0] at hpk
    rcases hrest : packV4Blocks eb rest with _ | btail
    · rw [hrest] at hpk
      exact absurd hpk (by simp)
    · rw [hrest] at hpk
      simp only [Option.some.injEq] at hpk
      subst hpk
      rw [readV4Blocks]
      have hblen : (packBitsExpanded eb d0 d1 d2 d3 d4 d5 d6 d7).length = eb :=
        packBitsExpanded_length eb d0 d1 d2 d3 d4 d5 d6 d7 h1 h2
      rw [List.append_assoc]
      rw [rdExact_len "delta_block" eb _ (btail ++ r) hblen, ebind_ok2]
      dsimp only
      have hup : unpack_bits_block (List.replicate 8 0)
          (packBitsExpanded eb d0 d1 d2 d3 d4 d5 d6 d7) eb
          = some [d0, d1, d2, d3, d4, d5, d6, d7] := by
        unfold unpack_bits_block
        rw [if_pos (by
          refine ⟨by simp, h1, h2, ?_, ?_⟩ <;> rw [hblen] <;> omega)]
        rw [unpack_pack_expanded eb d0 d1 d2 d3 d4 d5 d6 d7 h1 h2
          (hv d0 (by simp)) (hv d1 (by simp)) (hv d2 (by simp)) (hv d3 (by simp))
          (hv d4 (by simp)) (hv d5 (by simp)) (hv d6 (by simp)) (hv d7 (by simp))]
      rw [hup]
      rw [ih rest (r) btail (by simp at hlen; omega)
        (fun x hx => hv x (by simp [hx])) hrest]
      rfl

theorem getD_take (l : List Nat) (n j : Nat) (hj : j < n) :
    (l.take n).getD j 0 = l.getD j 0 := by
  induction l generalizing n j with
  | nil => simp
  | cons a l ih =>
    cases n with
    | zero => omega
    | succ m =>
      cases j with
      | zero => rfl
      | succ i =>
        simp only [List.take_succ_cons, List.getD_cons_succ]
        exact ih m i (by omega)

theorem bufspec_take (L L' T : Nat) (bytes : List Nat)
    (h : BufSpec L T bytes) (hL : L' ≤ L) :
    BufSpec L' (T / 2 ^ (8 * (L - L'))) (bytes.take L') := by
  obtain ⟨hlen, hbyte⟩ := h
  refine ⟨by simp [hlen]; omega, ?_⟩
  intro j hj
  rw [getD_take _ _ _ hj, hbyte j (by omega)]
  unfold ByteSpec
  rw [Nat.div_div_eq_div_mul, ← Nat.pow_add]
  rw [show 8 * (L - L') + 8 * (L' - 1 - j) = 8 * (L - 1 - j) by omega]

theorem streamT_lift (L' d : Nat) : ∀ (ps : List (Nat × Nat)) (P x : Nat),
    P + (ps.map Prod.snd).sum ≤ 8 * L' →
    streamT (L' + d) ps P (x * 2 ^ (8 * d)) = streamT L' ps P x * 2 ^ (8 * d) := by
  intro ps
  induction ps with
  | nil => intro P x _; rfl
  | cons p ps ih =>
    intro P x hsum
    simp only [List.map_cons, List.sum_cons] at hsum
    rw [streamT, streamT]
    rw [show 8 * (L' + d) - P - p.2 = (8 * L' - P - p.2) + 8 * d by omega]
    rw [Nat.pow_add, ← Nat.mul_assoc, ← Nat.add_mul]
    exact ih (P + p.2) (x + p.1 * 2 ^ (8 * L' - P - p.2)) (by omega)

theorem unpackV4Tail_of_pack (eb : Nat) (heb1 : 1 ≤ eb) (heb64 : eb ≤ 64)
    (ds : List Nat) (hlen7 : ds.length ≤ 7)
    (hv : ∀ d ∈ ds, d < 2 ^ eb) :
    ((packSeq (BitPacker.new (List.replicate eb 0))
        (ds.map (fun d => (d, eb)))).bytes.take
      (packSeq (BitPacker.new (List.replicate eb 0))
        (ds.map (fun d => (d, eb)))).byte_used).length
      = (ds.length * eb + 7) / 8 ∧
    unpackV4Tail eb ds.length
      ((packSeq (BitPacker.new (List.replicate eb 0))
          (ds.map (fun d => (d, eb)))).bytes.take
        (packSeq (BitPacker.new (List.replicate eb 0))
          (ds.map (fun d => (d, eb)))).byte_used) = ds := by
  set ps := ds.map (fun d => (d, eb)) with hps
  have hpv : ∀ p ∈ ps, p.1 < 2 ^ p.2 := by
    intro p hp
    rw [hps] at hp
    obtain ⟨d, hd, rfl⟩ := List.mem_map.mp hp
    exact hv d hd
  have hsum : (ps.map Prod.snd).sum = ds.length * eb := by
    rw [hps, List.map_map]
    have h : (Prod.snd ∘ fun d : Nat => (d, eb)) = fun _ => eb := rfl
    rw [h, List.map_const', List.sum_replicate, smul_eq_mul, Nat.mul_comm]
  set P := ds.length * eb with hP
  have hP8 : P ≤ 8 * eb := by
    rw [hP]
    calc ds.length * eb ≤ 7 * eb := Nat.mul_le_mul_right _ hlen7
      _ ≤ 8 * eb := by omega
  have hinit : PackInv eb 0 0 (BitPacker.new (List.replicate eb 0)) := by
    refine ⟨rfl, rfl, by omega, ⟨by simp [BitPacker.new], ?_⟩, ?_, by positivity⟩
    · intro j hj
      show (List.replicate eb 0).getD j 0 = ByteSpec eb 0 j
      rw [getD_replicate0]
      unfold ByteSpec
      simp
    · simp
  have hpack := packSeq_inv eb ps 0 0 _ hpv (by omega) hinit
  rw [Nat.zero_add, hsum] at hpack
  obtain ⟨hbi, hbu, _, hbuf, hT0, hTlt⟩ := hpack
  set st := packSeq (BitPacker.new (List.replicate eb 0)) ps with hst
  set T := streamT eb ps 0 0 with hT
  set L' := (P + 7) / 8 with hL'
  have hbused : st.byte_used = L' := by
    rw [BitPacker.byte_used, hbi, hbu, hL']
    by_cases h0 : P % 8 = 0
    · rw [if_pos h0]; omega
    · rw [if_neg h0]; omega
  have hL'le : L' ≤ eb := by
    rw [hL']
    omega
  have hblen : st.bytes.length = eb := hbuf.1
  have htake_len : (st.bytes.take st.byte_used).length = L' := by
    rw [hbused]
    simp [hblen]
    omega
  -- the truncated buffer is the byte image of the lifted stream
  have hTsplit : T = streamT L' ps 0 0 * 2 ^ (8 * (eb - L')) := by
    have h := streamT_lift L' (eb - L') ps 0 0 (by rw [hsum]; omega)
    rw [Nat.zero_mul] at h
    conv_lhs => rw [hT, show eb = L' + (eb - L') by omega]
    exact h
  have hTdiv : T / 2 ^ (8 * (eb - L')) = streamT L' ps 0 0 := by
    rw [hTsplit]
    exact Nat.mul_div_cancel _ (by positivity)
  have hbuf' : BufSpec L' (streamT L' ps 0 0) (st.bytes.take st.byte_used) := by
    rw [hbused, ← hTdiv]
    exact bufspec_take eb L' T st.bytes hbuf hL'le
  have hT2lt : streamT L' ps 0 0 < 2 ^ (8 * L') := by
    obtain ⟨S, hS, hSlt⟩ := streamT_grow L' ps 0 0 hpv (by rw [hsum]; omega)
    rw [hS]
    simpa using hSlt
  have hinvU : UnpackInv L' (streamT L' ps 0 0) 0
      (BitUnpacker.new (st.bytes.take st.byte_used)) :=
    ⟨rfl, rfl, by omega, hbuf', hT2lt⟩
  have hb64 : ∀ p ∈ ps, p.1 < 2 ^ p.2 := hpv
  have hun := unpackSeq_spec L' ps 0 0 _ hpv (by rw [hsum]; omega) (by simp) hinvU
  refine ⟨htake_len, ?_⟩
  unfold unpackV4Tail
  have hwidths : List.replicate ds.length eb = ps.map Prod.snd := by
    rw [hps, List.map_map]
    have h : (Prod.snd ∘ fun d : Nat => (d, eb)) = fun _ => eb := rfl
    rw [h, List.map_const']
  rw [hwidths]
  rw [hun.1]
  rw [hps, List.map_map]
  have h : (Prod.fst ∘ fun d : Nat => (d, eb)) = id := rfl
  rw [h, List.map_id]

theorem deltaList_length : ∀ (es : List Nat) (p : Nat),
    (deltaList p es).length = es.length := by
  intro es
  induction es with
  | nil => intro p; rfl
  | cons e es ih => intro p; simp [deltaList, ih]

theorem deltaList_le : ∀ (es : List Nat) (p : Nat) (d : Nat),
    d ∈ deltaList p es → ∃ e ∈ es, d ≤ e := by
  intro es
  induction es with
  | nil => intro p d hd; simp [deltaList] at hd
  | cons e es ih =>
    intro p d hd
    rw [deltaList] at hd
    rcases List.mem_cons.mp hd with rfl | hd2
    · exact ⟨e, by simp, Nat.sub_le _ _⟩
    · obtain ⟨f, hf, hdf⟩ := ih e d hd2
      exact ⟨f, by simp [hf], hdf⟩

theorem num_entries_bytes_bound (n : Nat) : n < 2 ^ (8 * num_entries_bytes n) := by
  unfold num_entries_bytes
  by_cases h0 : n = 0
  · subst h0
    simp
  · rw [if_neg h0]
    have h1 := Nat.lt_log2_self (n := n)
    have h2 : Nat.log2 n + 1 ≤ 8 * ((Nat.log2 n + 1 + 7) / 8) := by omega
    calc n < 2 ^ (Nat.log2 n + 1) := h1
      _ ≤ 2 ^ (8 * ((Nat.log2 n + 1 + 7) / 8)) := Nat.pow_le_pow_right (by norm_num) h2

theorem compute_entry_bits_pos (entries : List Nat) (e0 : Nat) (rest : List Nat)
    (he : entries = e0 :: rest) (h0 : 0 < e0) :
    1 ≤ compute_entry_bits entries := by
  unfold compute_entry_bits
  have hmem : e0 - 0 ∈ deltaList 0 entries := by
    rw [he, deltaList]
    simp
  have hle := (le_foldl_lor (deltaList 0 entries) 0).2 _ hmem
  have hne : (deltaList 0 entries).foldl (fun a d => a ||| d) 0 ≠ 0 := by omega
  rw [if_neg hne]
  omega

theorem foldl_lor_lt (n : Nat) : ∀ (l : List Nat) (a : Nat), a < 2 ^ n →
    (∀ x ∈ l, x < 2 ^ n) → l.foldl (fun x d => x ||| d) a < 2 ^ n := by
  intro l
  induction l with
  | nil => intro a ha _; exact ha
  | cons d l ih =>
    intro a ha hl
    exact ih (a ||| d) (Nat.or_lt_two_pow ha (hl d (by simp)))
      (fun x hx => hl x (by simp [hx]))

theorem compute_entry_bits_le64 (entries : List Nat)
    (h64 : ∀ e ∈ entries, e < 2 ^ 64) :
    compute_entry_bits entries ≤ 64 := by
  unfold compute_entry_bits
  have hd64 : ∀ d ∈ deltaList 0 entries, d < 2 ^ 64 := by
    intro d hd
    obtain ⟨e, he, hde⟩ := deltaList_le entries 0 d hd
    have := h64 e he
    omega
  have hored : (deltaList 0 entries).foldl (fun a d => a ||| d) 0 < 2 ^ 64 :=
    foldl_lor_lt 64 _ 0 (by positivity) hd64
  by_cases h0 : (deltaList 0 entries).foldl (fun a d => a ||| d) 0 = 0
  · rw [if_pos h0]; omega
  · rw [if_neg h0]
    have := (Nat.log2_lt h0).mpr hored
    omega

theorem packV4Blocks_bits_guard (eb : Nat) (d0 d1 d2 d3 d4 d5 d6 d7 : Nat)
    (rest blocks : List Nat)
    (h : packV4Blocks eb (d0 :: d1 :: d2 :: d3 :: d4 :: d5 :: d6 :: d7 :: rest)
      = some blocks) : 1 ≤ eb ∧ eb ≤ 63 := by
  rw [packV4Blocks] at h
  rcases hpb : pack_bits_block [d0, d1, d2, d3, d4, d5, d6, d7]
      (List.replicate eb 0) eb with _ | bb
  · rw [hpb] at h
    exact absurd h (by simp)
  · unfold pack_bits_block at hpb
    by_cases hg : ([d0, d1, d2, d3, d4, d5, d6, d7] : List Nat).length = 8 ∧ 1 ≤ eb ∧ eb ≤ 63
        ∧ (List.replicate eb (0:Nat)).length < eb * 8 ∧ eb ≤ (List.replicate eb (0:Nat)).length
    · exact ⟨hg.2.1, hg.2.2.1⟩
    · rw [if_neg hg] at hpb
      exact absurd hpb (by simp)

set_option maxHeartbeats 1000000 in
theorem deserialize_serialize_v4_roundtrip (seedHashF : Nat → Nat)
    (s : CompactThetaSketch) (seed : Nat) (bs : List Nat)
    (hsh : s.seed_hash < 2 ^ 16) (hseed : seedHashF seed = s.seed_hash)
    (htheta : s.theta ≤ MAX_THETA)
    (hval : ∀ e ∈ s.entries, 0 < e ∧ e < s.theta)
    (hlen : s.entries.length < 2 ^ 32)
    (hord : s.ordered = true) (hemp : s.empty = false)
    (hnonempty : s.entries ≠ [])
    (hsorted : List.Pairwise (· < ·) s.entries)
    (hbs : s.serialize_v4 = some bs) :
    CompactThetaSketch.deserialize_with_seed seedHashF bs seed = .ok s := by
  have hsh2 : s.seed_hash % 256 + 256 * (s.seed_hash / 256 % 256) = s.seed_hash := by
    omega
  have h64 : ∀ e ∈ s.entries, e < 2 ^ 64 := by
    intro e he
    have := (hval e he).2
    unfold MAX_THETA at htheta
    omega
  obtain ⟨e0, rest0, hent0⟩ : ∃ e0 rest0, s.entries = e0 :: rest0 := by
    cases h : s.entries with
    | nil => exact absurd h hnonempty
    | cons a t => exact ⟨a, t, rfl⟩
  set eb := compute_entry_bits s.entries with heb
  set neb := num_entries_bytes s.entries.length with hneb
  set ds := deltaList 0 s.entries with hds
  set len := s.entries.length with hlendef
  have heb1 : 1 ≤ eb :=
    compute_entry_bits_pos s.entries e0 rest0 hent0 (hval e0 (by simp [hent0])).1
  have heb64 : eb ≤ 64 := compute_entry_bits_le64 s.entries h64
  have hdbound : ∀ d ∈ ds, d < 2 ^ eb := fun d hd =>
    lt_pow_compute_entry_bits s.entries d hd
  have hdlen : ds.length = len := deltaList_length s.entries 0
  have hd64 : ∀ d ∈ ds, d < 2 ^ 64 := by
    intro d hd
    obtain ⟨e, he, hde⟩ := deltaList_le s.entries 0 d hd
    have := h64 e he
    omega
  simp only [CompactThetaSketch.serialize_v4] at hbs
  rcases hpkb : packV4Blocks eb (ds.take (8 * (len / 8))) with _ | blocks
  · rw [← heb, ← hds, ← hlendef, hpkb] at hbs
    exact absurd hbs (by simp)
  · rw [← heb, ← hds, ← hlendef, hpkb] at hbs
    simp only [Option.some.injEq] at hbs
    subst hbs
    -- facts about the payload
    have hcount : ∀ R, readCountBytes neb 0 0 (countBytes neb len ++ R)
        = .ok (len, R) := by
      intro R
      rw [readCountBytes_spec neb 0 0 len R (by
        rw [hneb, hlendef]
        exact num_entries_bytes_bound s.entries.length)]
      rw [Nat.shiftLeft_zero, Nat.zero_or]
    have hblocks : ∀ R, readV4Blocks eb (len / 8) (blocks ++ R)
        = .ok (ds.take (8 * (len / 8)), R) := by
      intro R
      by_cases hk : len / 8 = 0
      · have htake0 : ds.take (8 * (len / 8)) = [] := by
          rw [hk]
          simp
        rw [htake0] at hpkb
        simp only [packV4Blocks, Option.some.injEq] at hpkb
        subst hpkb
        rw [htake0, hk]
        rfl
      · have h8 : 8 ≤ (ds.take (8 * (len / 8))).length := by
          rw [List.length_take, hdlen]
          omega
        have htlen : (ds.take (8 * (len / 8))).length = 8 * (len / 8) := by
          rw [List.length_take, hdlen]
          omega
        have heb63 : eb ≤ 63 := by
          rcases htk : ds.take (8 * (len / 8)) with _ | ⟨d0, t0⟩
          · rw [htk] at h8; simp at h8
          · rcases t0 with _ | ⟨d1, t1⟩
            · rw [htk] at h8; simp at h8
            · rcases t1 with _ | ⟨d2, t2⟩
              · rw [htk] at h8; simp at h8
              · rcases t2 with _ | ⟨d3, t3⟩
                · rw [htk] at h8; simp at h8
                · rcases t3 with _ | ⟨d4, t4⟩
                  · rw [htk] at h8; simp at h8
                  · rcases t4 with _ | ⟨d5, t5⟩
                    · rw [htk] at h8; simp at h8
                    · rcases t5 with _ | ⟨d6, t6⟩
                      · rw [htk] at h8; simp at h8
                      · rcases t6 with _ | ⟨d7, t7⟩
                        · rw [htk] at h8; simp at h8
                        · rw [htk] at hpkb
                          exact (packV4Blocks_bits_guard eb d0 d1 d2 d3 d4 d5
                            d6 d7 t7 blocks hpkb).2
        exact readV4Blocks_of_pack eb heb1 heb63 (len / 8) (ds.take (8 * (len / 8)))
          R blocks htlen (fun d hd => hdbound d (List.mem_of_mem_take hd)) hpkb
    have hundo : undoDeltas 0 s.theta ds = .ok s.entries := by
      rw [hds]
      exact undoDeltas_deltaList s.theta s.entries 0 hval h64
        (chain_le_of_pairwise_lt s.entries hsorted)
    have hsplit : ds.take (8 * (len / 8)) ++ ds.drop (8 * (len / 8)) = ds :=
      List.take_append_drop _ _
    have hdrople : (ds.drop (8 * (len / 8))).length ≤ 7 := by
      rw [List.length_drop, hdlen]
      omega
    have hdroplen : (ds.drop (8 * (len / 8))).length = len - 8 * (len / 8) := by
      rw [List.length_drop, hdlen]
    rw [← hneb]
    by_cases hEst : s.is_estimation_mode = true
    · have hpre2 : s.preamble_longs true = 2 := by
        simp [CompactThetaSketch.preamble_longs, hEst]
      have hth64 : s.theta < 2 ^ 64 := by
        unfold MAX_THETA at htheta
        omega
      simp only [CompactThetaSketch.deserialize_with_seed, deserialize_v4,
        hpre2, hEst, if_true, COMPRESSED_SERIAL_VERSION, THETA_FAMILY_ID,
        THETA_MIN_PRE_LONGS, THETA_MAX_PRE_LONGS, FLAGS_IS_READ_ONLY,
        FLAGS_IS_COMPACT, FLAGS_IS_EMPTY, FLAGS_IS_ORDERED, u16_le_bytes,
        List.cons_append, List.nil_append, List.append_assoc,
        rdU8, rdU16le, ebind_ok2, hsh2]
      rw [if_neg (by decide), if_neg (by decide), if_neg (by decide),
        if_neg (by decide), if_neg (by decide),
        if_neg (show ¬(¬(((2:Nat) ||| 8 ||| 16) &&& 4 ≠ 0)
            ∧ s.seed_hash ≠ seedHashF seed) by simp [hseed]),
        if_pos (by decide),
        rdU64le_bytes _ _ _ hth64, ebind_ok2]
      dsimp only
      rw [hcount _, ebind_ok2]
      dsimp only
      rw [hblocks _, ebind_ok2]
      dsimp only
      by_cases hr : len - 8 * (len / 8) > 0
      · obtain ⟨htb1, htb2⟩ := unpackV4Tail_of_pack eb heb1 heb64
          (ds.drop (8 * (len / 8))) hdrople
          (fun d hd => hdbound d (List.mem_of_mem_drop hd))
        have htdne : (ds.drop (8 * (len / 8))).isEmpty = false := by
          rw [List.isEmpty_eq_false_iff_exists_mem]
          rcases hdd : ds.drop (8 * (len / 8)) with _ | ⟨x, xs⟩
          · rw [hdd] at hdroplen
            simp at hdroplen
            omega
          · exact ⟨x, by simp⟩
        have hpt : packV4Tail eb (ds.drop (8 * (len / 8)))
            = (packSeq (BitPacker.new (List.replicate eb 0))
                ((ds.drop (8 * (len / 8))).map (fun d => (d, eb)))).bytes.take
              (packSeq (BitPacker.new (List.replicate eb 0))
                ((ds.drop (8 * (len / 8))).map (fun d => (d, eb)))).byte_used := by
          unfold packV4Tail
          rw [htdne]
          rfl
        rw [if_pos hr, ← hdroplen, hpt]
        rw [rdExact_self _ _ _ htb1, ebind_ok2]
        dsimp only
        rw [htb2, hsplit, hundo, ebind_ok2]
        exact congrArg Except.ok (by
          cases s with
          | mk entries theta seed_hash ordered empty =>
            simp only at hord hemp ⊢
            rw [hord, hemp]
            simp
            all_goals decide)
      · have hdnil : ds.drop (8 * (len / 8)) = [] :=
          List.eq_nil_of_length_eq_zero (by omega)
        rw [if_neg hr, List.append_nil]
        rw [hdnil, List.append_nil] at hsplit
        rw [hsplit, hundo, ebind_ok2]
        exact congrArg Except.ok (by
          cases s with
          | mk entries theta seed_hash ordered empty =>
            simp only at hord hemp ⊢
            rw [hord, hemp]
            simp
            all_goals decide)
    · have hEstf : s.is_estimation_mode = false := by simpa using hEst
      have hthM : s.theta = MAX_THETA := by
        have := htheta
        unfold CompactThetaSketch.is_estimation_mode at hEstf
        simp only [decide_eq_false_iff_not, Nat.not_lt] at hEstf
        omega
      have hpre1 : s.preamble_longs true = 1 := by
        simp [CompactThetaSketch.preamble_longs, hEstf]
      have hundoM : undoDeltas 0 MAX_THETA ds = .ok s.entries := hthM ▸ hundo
      simp only [CompactThetaSketch.deserialize_with_seed, deserialize_v4,
        hpre1, hEstf, COMPRESSED_SERIAL_VERSION, THETA_FAMILY_ID,
        THETA_MIN_PRE_LONGS, THETA_MAX_PRE_LONGS, FLAGS_IS_READ_ONLY,
        FLAGS_IS_COMPACT, FLAGS_IS_EMPTY, FLAGS_IS_ORDERED, u16_le_bytes,
        List.cons_append, List.nil_append, List.append_assoc,
        Bool.false_eq_true, if_false,
        rdU8, rdU16le, ebind_ok2, hsh2]
      rw [if_neg (by decide), if_neg (by decide), if_neg (by decide),
        if_neg (by decide), if_neg (by decide),
        if_neg (show ¬(¬(((2:Nat) ||| 8 ||| 16) &&& 4 ≠ 0)
            ∧ s.seed_hash ≠ seedHashF seed) by simp [hseed])]
      rw [hcount _, ebind_ok2]
      dsimp only
      rw [hblocks _, ebind_ok2]
      dsimp only
      by_cases hr : len - 8 * (len / 8) > 0
      · obtain ⟨htb1, htb2⟩ := unpackV4Tail_of_pack eb heb1 heb64
          (ds.drop (8 * (len / 8))) hdrople
          (fun d hd => hdbound d (List.mem_of_mem_drop hd))
        have htdne : (ds.drop (8 * (len / 8))).isEmpty = false := by
          rw [List.isEmpty_eq_false_iff_exists_mem]
          rcases hdd : ds.drop (8 * (len / 8)) with _ | ⟨x, xs⟩
          · rw [hdd] at hdroplen
            simp at hdroplen
            omega
          · exact ⟨x, by simp⟩
        have hpt : packV4Tail eb (ds.drop (8 * (len / 8)))
            = (packSeq (BitPacker.new (List.replicate eb 0))
                ((ds.drop (8 * (len / 8))).map (fun d => (d, eb)))).bytes.take
              (packSeq (BitPacker.new (List.replicate eb 0))
                ((ds.drop (8 * (len / 8))).map (fun d => (d, eb)))).byte_used := by
          unfold packV4Tail
          rw [htdne]
          rfl
        rw [if_pos hr, ← hdroplen, hpt]
        rw [rdExact_self _ _ _ htb1, ebind_ok2]
        dsimp only
        rw [htb2, hsplit, hundoM, ebind_ok2]
        exact congrArg Except.ok (by
          cases s with
          | mk entries theta seed_hash ordered empty =>
            simp only at hord hemp hthM ⊢
            rw [hord, hemp, hthM]
            simp
            all_goals decide)
      · have hdnil : ds.drop (8 * (len / 8)) = [] :=
          List.eq_nil_of_length_eq_zero (by omega)
        rw [if_neg hr, List.append_nil]
        rw [hdnil, List.append_nil] at hsplit
        rw [hsplit, hundoM, ebind_ok2]
        exact congrArg Except.ok (by
          cases s with
          | mk entries theta seed_hash ordered empty =>
            simp only at hord hemp hthM ⊢
            rw [hord, hemp, hthM]
            simp
            all_goals decide)

set_option maxHeartbeats 1000000 in
/-- C1: for every well-formed compact Theta sketch (canonical empty state,
retained hashes in `(0, theta)`, `u16` seed hash, `u32` count, sorted entries
when the ordered flag is set) and matching expected seed,
`deserialize_with_seed` recovers the exact sketch from the `serialize` image,
and from every image `serialize_compressed` produces - both when it chose the
compressed v4 format and when it fell back to the uncompressed v3 image. -/
theorem c1_compact_serialization_roundtrip (seedHashF : Nat → Nat)
    (s : CompactThetaSketch) (seed : Nat)
    (hsh : s.seed_hash < 2 ^ 16) (hseed : seedHashF seed = s.seed_hash)
    (htheta : s.theta ≤ MAX_THETA)
    (hval : ∀ e ∈ s.entries, 0 < e ∧ e < s.theta)
    (hlen : s.entries.length < 2 ^ 32)
    (hempty : s.empty = true → s.entries = [] ∧ s.theta = MAX_THETA)
    (hsorted : s.ordered = true → List.Pairwise (· < ·) s.entries) :
    CompactThetaSketch.deserialize_with_seed seedHashF s.serialize seed = .ok s
    ∧ ∀ bs, s.serialize_compressed = some bs →
        CompactThetaSketch.deserialize_with_seed seedHashF bs seed = .ok s := by
  refine ⟨deserialize_serialize_v3 seedHashF s seed hsh hseed htheta hval hlen hempty,
    fun bs hbs => ?_⟩
  unfold CompactThetaSketch.serialize_compressed at hbs
  by_cases hsuit : s.is_suitable_for_compression = true
  · rw [if_pos hsuit] at hbs
    unfold CompactThetaSketch.is_suitable_for_compression at hsuit
    simp only [Bool.and_eq_true, Bool.not_eq_true', List.isEmpty_eq_false_iff_exists_mem] at hsuit
    obtain ⟨⟨hord, hne⟩, _⟩ := hsuit
    have hnonempty : s.entries ≠ [] := by
      obtain ⟨x, hx⟩ := hne
      intro h
      rw [h] at hx
      simp at hx
    have hemp : s.empty = false := by
      rcases hEm : s.empty with _ | _
      · rfl
      · exact absurd (hempty hEm).1 hnonempty
    exact deserialize_serialize_v4_roundtrip seedHashF s seed bs hsh hseed htheta
      hval hlen hord hemp hnonempty (hsorted hord) hbs
  · rw [if_neg hsuit] at hbs
    simp only [Option.some.injEq] at hbs
    subst hbs
    exact deserialize_serialize_v3 seedHashF s seed hsh hseed htheta hval hlen hempty

/-- Witness for C1: the sketch `⟨[1, 2], MAX_THETA, 5, true, false⟩` with seed
hash function constantly `5`. -/
theorem c1_compact_serialization_roundtrip_witness :
    CompactThetaSketch.deserialize_with_seed (fun _ => 5)
        (CompactThetaSketch.serialize ⟨[1, 2], MAX_THETA, 5, true, false⟩) 0
      = .ok ⟨[1, 2], MAX_THETA, 5, true, false⟩
    ∧ ∀ bs,
        CompactThetaSketch.serialize_compressed ⟨[1, 2], MAX_THETA, 5, true, false⟩
          = some bs →
        CompactThetaSketch.deserialize_with_seed (fun _ => 5) bs 0
          = .ok ⟨[1, 2], MAX_THETA, 5, true, false⟩ :=
  c1_compact_serialization_roundtrip (fun _ => 5) ⟨[1, 2], MAX_THETA, 5, true, false⟩ 0
    (by decide) (by decide) (by decide) (by decide) (by decide) (by decide)
    (by decide)

/-! ## Claim C5: the block codec and the stateful packer produce the same bytes

For each width the stateful run is evaluated state by state, and each byte of
the resulting image is proved equal to the corresponding `pack_bits_N` byte. -/

theorem u8_and255 (x : Nat) : u8 (x &&& 0xff) = u8 x := by
  simp [u8, land_mask255, Nat.mod_mod_of_dvd]

theorem u8_shiftRight_zero (x : Nat) : u8 (x >>> 0) = u8 x := rfl

set_option debug.skipKernelTC true

set_option maxHeartbeats 1600000 in
theorem c5_pack_eq_1 (v0 v1 v2 v3 v4 v5 v6 v7 : Nat) (hv0 : v0 < 2 ^ 1) (hv1 : v1 < 2 ^ 1) (hv2 : v2 < 2 ^ 1) (hv3 : v3 < 2 ^ 1) (hv4 : v4 < 2 ^ 1) (hv5 : v5 < 2 ^ 1) (hv6 : v6 < 2 ^ 1) (hv7 : v7 < 2 ^ 1) :
    (packSeq (BitPacker.new (List.replicate 1 0)) [(v0, 1), (v1, 1), (v2, 1), (v3, 1), (v4, 1), (v5, 1), (v6, 1), (v7, 1)]).bytes
      = pack_bits_1 v0 v1 v2 v3 v4 v5 v6 v7 := by
  have e0 : (BitPacker.new (List.replicate 1 0)).pack_value v0 1
      = (⟨[u8 (v0 <<< 7)], 0, 1⟩ : BitPacker) := by with_unfolding_all rfl
  have e1 : (⟨[u8 (v0 <<< 7)], 0, 1⟩ : BitPacker).pack_value v1 1
      = (⟨[u8 (v0 <<< 7) ||| (u8 (v1 <<< 6) &&& 127)], 0, 2⟩ : BitPacker) := by with_unfolding_all rfl
  have e2 : (⟨[u8 (v0 <<< 7) ||| (u8 (v1 <<< 6) &&& 127)], 0, 2⟩ : BitPacker).pack_value v2 1
      = (⟨[u8 (v0 <<< 7) ||| (u8 (v1 <<< 6) &&& 127) ||| (u8 (v2 <<< 5) &&& 63)], 0, 3⟩ : BitPacker) := by with_unfolding_all rfl
  have e3 : (⟨[u8 (v0 <<< 7) ||| (u8 (v1 <<< 6) &&& 127) ||| (u8 (v2 <<< 5) &&& 63)], 0, 3⟩ : BitPacker).pack_value v3 1
      = (⟨[u8 (v0 <<< 7) ||| (u8 (v1 <<< 6) &&& 127) ||| (u8 (v2 <<< 5) &&& 63) ||| (u8 (v3 <<< 4) &&& 31)], 0, 4⟩ : BitPacker) := by with_unfolding_all rfl
  have e4 : (⟨[u8 (v0 <<< 7) ||| (u8 (v1 <<< 6) &&& 127) ||| (u8 (v2 <<< 5) &&& 63) ||| (u8 (v3 <<< 4) &&& 31)], 0, 4⟩ : BitPacker).pack_value v4 1
      = (⟨[u8 (v0 <<< 7) ||| (u8 (v1 <<< 6) &&& 127) ||| (u8 (v2 <<< 5) &&& 63) ||| (u8 (v3 <<< 4) &&& 31) ||| (u8 (v4 <<< 3) &&& 15)], 0, 5⟩ : BitPacker) := by with_unfolding_all rfl
  have e5 : (⟨[u8 (v0 <<< 7) ||| (u8 (v1 <<< 6) &&& 127) ||| (u8 (v2 <<< 5) &&& 63) ||| (u8 (v3 <<< 4) &&& 31) ||| (u8 (v4 <<< 3) &&& 15)], 0, 5⟩ : BitPacker).pack_value v5 1
      = (⟨[u8 (v0 <<< 7) ||| (u8 (v1 <<< 6) &&& 127) ||| (u8 (v2 <<< 5) &&& 63) ||| (u8 (v3 <<< 4) &&& 31) ||| (u8 (v4 <<< 3) &&& 15) ||| (u8 (v5 <<< 2) &&& 7)], 0, 6⟩ : BitPacker) := by with_unfolding_all rfl
  have e6 : (⟨[u8 (v0 <<< 7) ||| (u8 (v1 <<< 6) &&& 127) ||| (u8 (v2 <<< 5) &&& 63) ||| (u8 (v3 <<< 4) &&& 31) ||| (u8 (v4 <<< 3) &&& 15) ||| (u8 (v5 <<< 2) &&& 7)], 0, 6⟩ : BitPacker).pack_value v6 1
      = (⟨[u8 (v0 <<< 7) ||| (u8 (v1 <<< 6) &&& 127) ||| (u8 (v2 <<< 5) &&& 63) ||| (u8 (v3 <<< 4) &&& 31) ||| (u8 (v4 <<< 3) &&& 15) ||| (u8 (v5 <<< 2) &&& 7) ||| (u8 (v6 <<< 1) &&& 3)], 0, 7⟩ : BitPacker) := by with_unfolding_all rfl
  have e7 : (⟨[u8 (v0 <<< 7) ||| (u8 (v1 <<< 6) &&& 127) ||| (u8 (v2 <<< 5) &&& 63) ||| (u8 (v3 <<< 4) &&& 31) ||| (u8 (v4 <<< 3) &&& 15) ||| (u8 (v5 <<< 2) &&& 7) ||| (u8 (v6 <<< 1) &&& 3)], 0, 7⟩ : BitPacker).pack_value v7 1
      = (⟨[u8 (v0 <<< 7) ||| (u8 (v1 <<< 6) &&& 127) ||| (u8 (v2 <<< 5) &&& 63) ||| (u8 (v3 <<< 4) &&& 31) ||| (u8 (v4 <<< 3) &&& 15) ||| (u8 (v5 <<< 2) &&& 7) ||| (u8 (v6 <<< 1) &&& 3) ||| (u8 (v7 >>> 0) &&& 1)], 1, 0⟩ : BitPacker) := by with_unfolding_all rfl
  have key : (packSeq (BitPacker.new (List.replicate 1 0)) [(v0, 1), (v1, 1), (v2, 1), (v3, 1), (v4, 1), (v5, 1), (v6, 1), (v7, 1)]).bytes
      = [ u8 (v0 <<< 7) ||| (u8 (v1 <<< 6) &&& 127) ||| (u8 (v2 <<< 5) &&& 63) ||| (u8 (v3 <<< 4) &&& 31) ||| (u8 (v4 <<< 3) &&& 15) ||| (u8 (v5 <<< 2) &&& 7) ||| (u8 (v6 <<< 1) &&& 3) ||| (u8 (v7 >>> 0) &&& 1) ] := by
    simp only [packSeq, List.foldl]
    rw [e0, e1, e2, e3, e4, e5, e6, e7]
  have key2 : pack_bits_1 v0 v1 v2 v3 v4 v5 v6 v7
      = [ u8 (((((v0) &&& 0x1) <<< 7) ||| (((v1) &&& 0x1) <<< 6) ||| (((v2) &&& 0x1) <<< 5) ||| (((v3) &&& 0x1) <<< 4) ||| (((v4) &&& 0x1) <<< 3) ||| (((v5) &&& 0x1) <<< 2) ||| (((v6) &&& 0x1) <<< 1) ||| ((v7) &&& 0x1))) ] := rfl
  rw [key, key2]
  simp only [List.cons.injEq]
  refine ⟨?_, trivial⟩
  · rw [lor_eq_add (u8 (v0 <<< 7)) (u8 (v1 <<< 6) &&& 127) 7 (by
      simp (disch := omega) only [u8, Nat.lor_assoc, Nat.shiftLeft_eq,
          Nat.shiftRight_eq_div_pow, Nat.shiftRight_zero, land_mask1, land_mask3,
          land_mask7, land_mask15, land_mask31, land_mask63, land_mask127, land_mask255,
          lor_mul_pow, lor_add_mul_pow]
      omega) (by
      simp (disch := omega) only [u8, Nat.lor_assoc, Nat.shiftLeft_eq,
          Nat.shiftRight_eq_div_pow, Nat.shiftRight_zero, land_mask1, land_mask3,
          land_mask7, land_mask15, land_mask31, land_mask63, land_mask127, land_mask255,
          lor_mul_pow, lor_add_mul_pow]
      omega)]
    rw [lor_eq_add (u8 (v0 <<< 7) + (u8 (v1 <<< 6) &&& 127)) (u8 (v2 <<< 5) &&& 63) 6 (by
      simp (disch := omega) only [u8, Nat.lor_assoc, Nat.shiftLeft_eq,
          Nat.shiftRight_eq_div_pow, Nat.shiftRight_zero, land_mask1, land_mask3,
          land_mask7, land_mask15, land_mask31, land_mask63, land_mask127, land_mask255,
          lor_mul_pow, lor_add_mul_pow]
      omega) (by
      simp (disch := omega) only [u8, Nat.lor_assoc, Nat.shiftLeft_eq,
          Nat.shiftRight_eq_div_pow, Nat.shiftRight_zero, land_mask1, land_mask3,
          land_mask7, land_mask15, land_mask31, land_mask63, land_mask127, land_mask255,
          lor_mul_pow, lor_add_mul_pow]
      omega)]
    rw [lor_eq_add (u8 (v0 <<< 7) + (u8 (v1 <<< 6) &&& 127) + (u8 (v2 <<< 5) &&& 63)) (u8 (v3 <<< 4) &&& 31) 5 (by
      simp (disch := omega) only [u8, Nat.lor_assoc, Nat.shiftLeft_eq,
          Nat.shiftRight_eq_div_pow, Nat.shiftRight_zero, land_mask1, land_mask3,
          land_mask7, land_mask15, land_mask31, land_mask63, land_mask127, land_mask255,
          lor_mul_pow, lor_add_mul_pow]
      omega) (by
      simp (disch := omega) only [u8, Nat.lor_assoc, Nat.shiftLeft_eq,
          Nat.shiftRight_eq_div_pow, Nat.shiftRight_zero, land_mask1, land_mask3,
          land_mask7, land_mask15, land_mask31, land_mask63, land_mask127, land_mask255,
          lor_mul_pow, lor_add_mul_pow]
      omega)]
    rw [lor_eq_add (u8 (v0 <<< 7) + (u8 (v1 <<< 6) &&& 127) + (u8 (v2 <<< 5) &&& 63) + (u8 (v3 <<< 4) &&& 31)) (u8 (v4 <<< 3) &&& 15) 4 (by
      simp (disch := omega) only [u8, Nat.lor_assoc, Nat.shiftLeft_eq,
          Nat.shiftRight_eq_div_pow, Nat.shiftRight_zero, land_mask1, land_mask3,
          land_mask7, land_mask15, land_mask31, land_mask63, land_mask127, land_mask255,
          lor_mul_pow, lor_add_mul_pow]
      omega) (by
      simp (disch := omega) only [u8, Nat.lor_assoc, Nat.shiftLeft_eq,
          Nat.shiftRight_eq_div_pow, Nat.shiftRight_zero, land_mask1, land_mask3,
          land_mask7, land_mask15, land_mask31, land_mask63, land_mask127, land_mask255,
          lor_mul_pow, lor_add_mul_pow]
      omega)]
    rw [lor_eq_add (u8 (v0 <<< 7) + (u8 (v1 <<< 6) &&& 127) + (u8 (v2 <<< 5) &&& 63) + (u8 (v3 <<< 4) &&& 31) + (u8 (v4 <<< 3) &&& 15)) (u8 (v5 <<< 2) &&& 7) 3 (by
      simp (disch := omega) only [u8, Nat.lor_assoc, Nat.shiftLeft_eq,
          Nat.shiftRight_eq_div_pow, Nat.shiftRight_zero, land_mask1, land_mask3,
          land_mask7, land_mask15, land_mask31, land_mask63, land_mask127, land_mask255,
          lor_mul_pow, lor_add_mul_pow]
      omega) (by
      simp (disch := omega) only [u8, Nat.lor_assoc, Nat.shiftLeft_eq,
          Nat.shiftRight_eq_div_pow, Nat.shiftRight_zero, land_mask1, land_mask3,
          land_mask7, land_mask15, land_mask31, land_mask63, land_mask127, land_mask255,
          lor_mul_pow, lor_add_mul_pow]
      omega)]
    rw [lor_eq_add (u8 (v0 <<< 7) + (u8 (v1 <<< 6) &&& 127) + (u8 (v2 <<< 5) &&& 63) + (u8 (v3 <<< 4) &&& 31) + (u8 (v4 <<< 3) &&& 15) + (u8 (v5 <<< 2) &&& 7)) (u8 (v6 <<< 1) &&& 3) 2 (by
      simp (disch := omega) only [u8, Nat.lor_assoc, Nat.shiftLeft_eq,
          Nat.shiftRight_eq_div_pow, Nat.shiftRight_zero, land_mask1, land_mask3,
          land_mask7, land_mask15, land_mask31, land_mask63, land_mask127, land_mask255,
          lor_mul_pow, lor_add_mul_pow]
      omega) (by
      simp (disch := omega) only [u8, Nat.lor_assoc, Nat.shiftLeft_eq,
          Nat.shiftRight_eq_div_pow, Nat.shiftRight_zero, land_mask1, land_mask3,
          land_mask7, land_mask15, land_mask31, land_mask63, land_mask127, land_mask255,
          lor_mul_pow, lor_add_mul_pow]
      omega)]
    rw [lor_eq_add (u8 (v0 <<< 7) + (u8 (v1 <<< 6) &&& 127) + (u8 (v2 <<< 5) &&& 63) + (u8 (v3 <<< 4) &&& 31) + (u8 (v4 <<< 3) &&& 15) + (u8 (v5 <<< 2) &&& 7) + (u8 (v6 <<< 1) &&& 3)) (u8 (v7 >>> 0) &&& 1) 1 (by
      simp (disch := omega) only [u8, Nat.lor_assoc, Nat.shiftLeft_eq,
          Nat.shiftRight_eq_div_pow, Nat.shiftRight_zero, land_mask1, land_mask3,
          land_mask7, land_mask15, land_mask31, land_mask63, land_mask127, land_mask255,
          lor_mul_pow, lor_add_mul_pow]
      omega) (by
      simp (disch := omega) only [u8, Nat.lor_assoc, Nat.shiftLeft_eq,
          Nat.shiftRight_eq_div_pow, Nat.shiftRight_zero, land_mask1, land_mask3,
          land_mask7, land_mask15, land_mask31, land_mask63, land_mask127, land_mask255,
          lor_mul_pow, lor_add_mul_pow]
      omega)]
    simp (disch := omega) only [u8, Nat.lor_assoc, Nat.shiftLeft_eq,
          Nat.shiftRight_eq_div_pow, Nat.shiftRight_zero, land_mask1, land_mask3,
          land_mask7, land_mask15, land_mask31, land_mask63, land_mask127, land_mask255,
          lor_mul_pow, lor_add_mul_pow]
    omega

set_option maxHeartbeats 1600000 in
theorem c5_pack_eq_2 (v0 v1 v2 v3 v4 v5 v6 v7 : Nat) (hv0 : v0 < 2 ^ 2) (hv1 : v1 < 2 ^ 2) (hv2 : v2 < 2 ^ 2) (hv3 : v3 < 2 ^ 2) (hv4 : v4 < 2 ^ 2) (hv5 : v5 < 2 ^ 2) (hv6 : v6 < 2 ^ 2) (hv7 : v7 < 2 ^ 2) :
    (packSeq (BitPacker.new (List.replicate 2 0)) [(v0, 2), (v1, 2), (v2, 2), (v3, 2), (v4, 2), (v5, 2), (v6, 2), (v7, 2)]).bytes
      = pack_bits_2 v0 v1 v2 v3 v4 v5 v6 v7 := by
  have e0 : (BitPacker.new (List.replicate 2 0)).pack_value v0 2
      = (⟨[u8 (v0 <<< 6), 0], 0, 2⟩ : BitPacker) := by with_unfolding_all rfl
  have e1 : (⟨[u8 (v0 <<< 6), 0], 0, 2⟩ : BitPacker).pack_value v1 2
      = (⟨[u8 (v0 <<< 6) ||| (u8 (v1 <<< 4) &&& 63), 0], 0, 4⟩ : BitPacker) := by with_unfolding_all rfl
  have e2 : (⟨[u8 (v0 <<< 6) ||| (u8 (v1 <<< 4) &&& 63), 0], 0, 4⟩ : BitPacker).pack_value v2 2
      = (⟨[u8 (v0 <<< 6) ||| (u8 (v1 <<< 4) &&& 63) ||| (u8 (v2 <<< 2) &&& 15), 0], 0, 6⟩ : BitPacker) := by with_unfolding_all rfl
  have e3 : (⟨[u8 (v0 <<< 6) ||| (u8 (v1 <<< 4) &&& 63) ||| (u8 (v2 <<< 2) &&& 15), 0], 0, 6⟩ : BitPacker).pack_value v3 2
      = (⟨[u8 (v0 <<< 6) ||| (u8 (v1 <<< 4) &&& 63) ||| (u8 (v2 <<< 2) &&& 15) ||| (u8 (v3 >>> 0) &&& 3), 0], 1, 0⟩ : BitPacker) := by with_unfolding_all rfl
  have e4 : (⟨[u8 (v0 <<< 6) ||| (u8 (v1 <<< 4) &&& 63) ||| (u8 (v2 <<< 2) &&& 15) ||| (u8 (v3 >>> 0) &&& 3), 0], 1, 0⟩ : BitPacker).pack_value v4 2
      = (⟨[u8 (v0 <<< 6) ||| (u8 (v1 <<< 4) &&& 63) ||| (u8 (v2 <<< 2) &&& 15) ||| (u8 (v3 >>> 0) &&& 3), u8 (v4 <<< 6)], 1, 2⟩ : BitPacker) := by with_unfolding_all rfl
  have e5 : (⟨[u8 (v0 <<< 6) ||| (u8 (v1 <<< 4) &&& 63) ||| (u8 (v2 <<< 2) &&& 15) ||| (u8 (v3 >>> 0) &&& 3), u8 (v4 <<< 6)], 1, 2⟩ : BitPacker).pack_value v5 2
      = (⟨[u8 (v0 <<< 6) ||| (u8 (v1 <<< 4) &&& 63) ||| (u8 (v2 <<< 2) &&& 15) ||| (u8 (v3 >>> 0) &&& 3), u8 (v4 <<< 6) ||| (u8 (v5 <<< 4) &&& 63)], 1, 4⟩ : BitPacker) := by with_unfolding_all rfl
  have e6 : (⟨[u8 (v0 <<< 6) ||| (u8 (v1 <<< 4) &&& 63) ||| (u8 (v2 <<< 2) &&& 15) ||| (u8 (v3 >>> 0) &&& 3), u8 (v4 <<< 6) ||| (u8 (v5 <<< 4) &&& 63)], 1, 4⟩ : BitPacker).pack_value v6 2
      = (⟨[u8 (v0 <<< 6) ||| (u8 (v1 <<< 4) &&& 63) ||| (u8 (v2 <<< 2) &&& 15) ||| (u8 (v3 >>> 0) &&& 3), u8 (v4 <<< 6) ||| (u8 (v5 <<< 4) &&& 63) ||| (u8 (v6 <<< 2) &&& 15)], 1, 6⟩ : BitPacker) := by with_unfolding_all rfl
  have e7 : (⟨[u8 (v0 <<< 6) ||| (u8 (v1 <<< 4) &&& 63) ||| (u8 (v2 <<< 2) &&& 15) ||| (u8 (v3 >>> 0) &&& 3), u8 (v4 <<< 6) ||| (u8 (v5 <<< 4) &&& 63) ||| (u8 (v6 <<< 2) &&& 15)], 1, 6⟩ : BitPacker).pack_value v7 2
      = (⟨[u8 (v0 <<< 6) ||| (u8 (v1 <<< 4) &&& 63) ||| (u8 (v2 <<< 2) &&& 15) ||| (u8 (v3 >>> 0) &&& 3), u8 (v4 <<< 6) ||| (u8 (v5 <<< 4) &&& 63) ||| (u8 (v6 <<< 2) &&& 15) ||| (u8 (v7 >>> 0) &&& 3)], 2, 0⟩ : BitPacker) := by with_unfolding_all rfl
  have key : (packSeq (BitPacker.new (List.replicate 2 0)) [(v0, 2), (v1, 2), (v2, 2), (v3, 2), (v4, 2), (v5, 2), (v6, 2), (v7, 2)]).bytes
      = [ u8 (v0 <<< 6) ||| (u8 (v1 <<< 4) &&& 63) ||| (u8 (v2 <<< 2) &&& 15) ||| (u8 (v3 >>> 0) &&& 3),
          u8 (v4 <<< 6) ||| (u8 (v5 <<< 4) &&& 63) ||| (u8 (v6 <<< 2) &&& 15) ||| (u8 (v7 >>> 0) &&& 3) ] := by
    simp only [packSeq, List.foldl]
    rw [e0, e1, e2, e3, e4, e5, e6, e7]
  have key2 : pack_bits_2 v0 v1 v2 v3 v4 v5 v6 v7
      = [ u8 (((((v0) &&& 0x3) <<< 6) ||| (((v1) &&& 0x3) <<< 4) ||| (((v2) &&& 0x3) <<< 2) ||| ((v3) &&& 0x3))),
          u8 (((((v4) &&& 0x3) <<< 6) ||| (((v5) &&& 0x3) <<< 4) ||| (((v6) &&& 0x3) <<< 2) ||| ((v7) &&& 0x3))) ] := rfl
  rw [key, key2]
  simp only [List.cons.injEq]
  refine ⟨?_, ?_, trivial⟩
  · rw [lor_eq_add (u8 (v0 <<< 6)) (u8 (v1 <<< 4) &&& 63) 6 (by
      simp (disch := omega) only [u8, Nat.lor_assoc, Nat.shiftLeft_eq,
          Nat.shiftRight_eq_div_pow, Nat.shiftRight_zero, land_mask1, land_mask3,
          land_mask7, land_mask15, land_mask31, land_mask63, land_mask127, land_mask255,
          lor_mul_pow, lor_add_mul_pow]
      omega) (by
      simp (disch := omega) only [u8, Nat.lor_assoc, Nat.shiftLeft_eq,
          Nat.shiftRight_eq_div_pow, Nat.shiftRight_zero, land_mask1, land_mask3,
          land_mask7, land_mask15, land_mask31, land_mask63, land_mask127, land_mask255,
          lor_mul_pow, lor_add_mul_pow]
      omega)]
    rw [lor_eq_add (u8 (v0 <<< 6) + (u8 (v1 <<< 4) &&& 63)) (u8 (v2 <<< 2) &&& 15) 4 (by
      simp (disch := omega) only [u8, Nat.lor_assoc, Nat.shiftLeft_eq,
          Nat.shiftRight_eq_div_pow, Nat.shiftRight_zero, land_mask1, land_mask3,
          land_mask7, land_mask15, land_mask31, land_mask63, land_mask127, land_mask255,
          lor_mul_pow, lor_add_mul_pow]
      omega) (by
      simp (disch := omega) only [u8, Nat.lor_assoc, Nat.shiftLeft_eq,
          Nat.shiftRight_eq_div_pow, Nat.shiftRight_zero, land_mask1, land_mask3,
          land_mask7, land_mask15, land_mask31, land_mask63, land_mask127, land_mask255,
          lor_mul_pow, lor_add_mul_pow]
      omega)]
    rw [lor_eq_add (u8 (v0 <<< 6) + (u8 (v1 <<< 4) &&& 63) + (u8 (v2 <<< 2) &&& 15)) (u8 (v3 >>> 0) &&& 3) 2 (by
      simp (disch := omega) only [u8, Nat.lor_assoc, Nat.shiftLeft_eq,
          Nat.shiftRight_eq_div_pow, Nat.shiftRight_zero, land_mask1, land_mask3,
          land_mask7, land_mask15, land_mask31, land_mask63, land_mask127, land_mask255,
          lor_mul_pow, lor_add_mul_pow]
      omega) (by
      simp (disch := omega) only [u8, Nat.lor_assoc, Nat.shiftLeft_eq,
          Nat.shiftRight_eq_div_pow, Nat.shiftRight_zero, land_mask1, land_mask3,
          land_mask7, land_mask15, land_mask31, land_mask63, land_mask127, land_mask255,
          lor_mul_pow, lor_add_mul_pow]
      omega)]
    simp (disch := omega) only [u8, Nat.lor_assoc, Nat.shiftLeft_eq,
          Nat.shiftRight_eq_div_pow, Nat.shiftRight_zero, land_mask1, land_mask3,
          land_mask7, land_mask15, land_mask31, land_mask63, land_mask127, land_mask255,
          lor_mul_pow, lor_add_mul_pow]
    omega
  · rw [lor_eq_add (u8 (v4 <<< 6)) (u8 (v5 <<< 4) &&& 63) 6 (by
      simp (disch := omega) only [u8, Nat.lor_assoc, Nat.shiftLeft_eq,
          Nat.shiftRight_eq_div_pow, Nat.shiftRight_zero, land_mask1, land_mask3,
          land_mask7, land_mask15, land_mask31, land_mask63, land_mask127, land_mask255,
          lor_mul_pow, lor_add_mul_pow]
      omega) (by
      simp (disch := omega) only [u8, Nat.lor_assoc, Nat.shiftLeft_eq,
          Nat.shiftRight_eq_div_pow, Nat.shiftRight_zero, land_mask1, land_mask3,
          land_mask7, land_mask15, land_mask31, land_mask63, land_mask127, land_mask255,
          lor_mul_pow, lor_add_mul_pow]
      omega)]
    rw [lor_eq_add (u8 (v4 <<< 6) + (u8 (v5 <<< 4) &&& 63)) (u8 (v6 <<< 2) &&& 15) 4 (by
      simp (disch := omega) only [u8, Nat.lor_assoc, Nat.shiftLeft_eq,
          Nat.shiftRight_eq_div_pow, Nat.shiftRight_zero, land_mask1, land_mask3,
          land_mask7, land_mask15, land_mask31, land_mask63, land_mask127, land_mask255,
          lor_mul_pow, lor_add_mul_pow]
      omega) (by
      simp (disch := omega) only [u8, Nat.lor_assoc, Nat.shiftLeft_eq,
          Nat.shiftRight_eq_div_pow, Nat.shiftRight_zero, land_mask1, land_mask3,
          land_mask7, land_mask15, land_mask31, land_mask63, land_mask127, land_mask255,
          lor_mul_pow, lor_add_mul_pow]
      omega)]
    rw [lor_eq_add (u8 (v4 <<< 6) + (u8 (v5 <<< 4) &&& 63) + (u8 (v6 <<< 2) &&& 15)) (u8 (v7 >>> 0) &&& 3) 2 (by
      simp (disch := omega) only [u8, Nat.lor_assoc, Nat.shiftLeft_eq,
          Nat.shiftRight_eq_div_pow, Nat.shiftRight_zero, land_mask1, land_mask3,
          land_mask7, land_mask15, land_mask31, land_mask63, land_mask127, land_mask255,
          lor_mul_pow, lor_add_mul_pow]
      omega) (by
      simp (disch := omega) only [u8, Nat.lor_assoc, Nat.shiftLeft_eq,
          Nat.shiftRight_eq_div_pow, Nat.shiftRight_zero, land_mask1, land_mask3,
          land_mask7, land_mask15, land_mask31, land_mask63, land_mask127, land_mask255,
          lor_mul_pow, lor_add_mul_pow]
      omega)]
    simp (disch := omega) only [u8, Nat.lor_assoc, Nat.shiftLeft_eq,
          Nat.shiftRight_eq_div_pow, Nat.shiftRight_zero, land_mask1, land_mask3,
          land_mask7, land_mask15, land_mask31, land_mask63, land_mask127, land_mask255,
          lor_mul_pow, lor_add_mul_pow]
    omega

set_option maxHeartbeats 1600000 in
theorem c5_pack_eq_3 (v0 v1 v2 v3 v4 v5 v6 v7 : Nat) (hv0 : v0 < 2 ^ 3) (hv1 : v1 < 2 ^ 3) (hv2 : v2 < 2 ^ 3) (hv3 : v3 < 2 ^ 3) (hv4 : v4 < 2 ^ 3) (hv5 : v5 < 2 ^ 3) (hv6 : v6 < 2 ^ 3) (hv7 : v7 < 2 ^ 3) :
    (packSeq (BitPacker.new (List.replicate 3 0)) [(v0, 3), (v1, 3), (v2, 3), (v3, 3), (v4, 3), (v5, 3), (v6, 3), (v7, 3)]).bytes
      = pack_bits_3 v0 v1 v2 v3 v4 v5 v6 v7 := by
  have e0 : (BitPacker.new (List.replicate 3 0)).pack_value v0 3
      = (⟨[u8 (v0 <<< 5), 0, 0], 0, 3⟩ : BitPacker) := by with_unfolding_all rfl
  have e1 : (⟨[u8 (v0 <<< 5), 0, 0], 0, 3⟩ : BitPacker).pack_value v1 3
      = (⟨[u8 (v0 <<< 5) ||| (u8 (v1 <<< 2) &&& 31), 0, 0], 0, 6⟩ : BitPacker) := by with_unfolding_all rfl
  have e2 : (⟨[u8 (v0 <<< 5) ||| (u8 (v1 <<< 2) &&& 31), 0, 0], 0, 6⟩ : BitPacker).pack_value v2 3
      = (⟨[u8 (v0 <<< 5) ||| (u8 (v1 <<< 2) &&& 31) ||| (u8 (v2 >>> 1) &&& 3), u8 (v2 <<< 7), 0], 1, 1⟩ : BitPacker) := by with_unfolding_all rfl
  have e3 : (⟨[u8 (v0 <<< 5) ||| (u8 (v1 <<< 2) &&& 31) ||| (u8 (v2 >>> 1) &&& 3), u8 (v2 <<< 7), 0], 1, 1⟩ : BitPacker).pack_value v3 3
      = (⟨[u8 (v0 <<< 5) ||| (u8 (v1 <<< 2) &&& 31) ||| (u8 (v2 >>> 1) &&& 3), u8 (v2 <<< 7) ||| (u8 (v3 <<< 4) &&& 127), 0], 1, 4⟩ : BitPacker) := by with_unfolding_all rfl
  have e4 : (⟨[u8 (v0 <<< 5) ||| (u8 (v1 <<< 2) &&& 31) ||| (u8 (v2 >>> 1) &&& 3), u8 (v2 <<< 7) ||| (u8 (v3 <<< 4) &&& 127), 0], 1, 4⟩ : BitPacker).pack_value v4 3
      = (⟨[u8 (v0 <<< 5) ||| (u8 (v1 <<< 2) &&& 31) ||| (u8 (v2 >>> 1) &&& 3), u8 (v2 <<< 7) ||| (u8 (v3 <<< 4) &&& 127) ||| (u8 (v4 <<< 1) &&& 15), 0], 1, 7⟩ : BitPacker) := by with_unfolding_all rfl
  have e5 : (⟨[u8 (v0 <<< 5) ||| (u8 (v1 <<< 2) &&& 31) ||| (u8 (v2 >>> 1) &&& 3), u8 (v2 <<< 7) ||| (u8 (v3 <<< 4) &&& 127) ||| (u8 (v4 <<< 1) &&& 15), 0], 1, 7⟩ : BitPacker).pack_value v5 3
      = (⟨[u8 (v0 <<< 5) ||| (u8 (v1 <<< 2) &&& 31) ||| (u8 (v2 >>> 1) &&& 3), u8 (v2 <<< 7) ||| (u8 (v3 <<< 4) &&& 127) ||| (u8 (v4 <<< 1) &&& 15) ||| (u8 (v5 >>> 2) &&& 1), u8 (v5 <<< 6)], 2, 2⟩ : BitPacker) := by with_unfolding_all rfl
  have e6 : (⟨[u8 (v0 <<< 5) ||| (u8 (v1 <<< 2) &&& 31) ||| (u8 (v2 >>> 1) &&& 3), u8 (v2 <<< 7) ||| (u8 (v3 <<< 4) &&& 127) ||| (u8 (v4 <<< 1) &&& 15) ||| (u8 (v5 >>> 2) &&& 1), u8 (v5 <<< 6)], 2, 2⟩ : BitPacker).pack_value v6 3
      = (⟨[u8 (v0 <<< 5) ||| (u8 (v1 <<< 2) &&& 31) ||| (u8 (v2 >>> 1) &&& 3), u8 (v2 <<< 7) ||| (u8 (v3 <<< 4) &&& 127) ||| (u8 (v4 <<< 1) &&& 15) ||| (u8 (v5 >>> 2) &&& 1), u8 (v5 <<< 6) ||| (u8 (v6 <<< 3) &&& 63)], 2, 5⟩ : BitPacker) := by with_unfolding_all rfl
  have e7 : (⟨[u8 (v0 <<< 5) ||| (u8 (v1 <<< 2) &&& 31) ||| (u8 (v2 >>> 1) &&& 3), u8 (v2 <<< 7) ||| (u8 (v3 <<< 4) &&& 127) ||| (u8 (v4 <<< 1) &&& 15) ||| (u8 (v5 >>> 2) &&& 1), u8 (v5 <<< 6) ||| (u8 (v6 <<< 3) &&& 63)], 2, 5⟩ : BitPacker).pack_value v7 3
      = (⟨[u8 (v0 <<< 5) ||| (u8 (v1 <<< 2) &&& 31) ||| (u8 (v2 >>> 1) &&& 3), u8 (v2 <<< 7) ||| (u8 (v3 <<< 4) &&& 127) ||| (u8 (v4 <<< 1) &&& 15) ||| (u8 (v5 >>> 2) &&& 1), u8 (v5 <<< 6) ||| (u8 (v6 <<< 3) &&& 63) ||| (u8 (v7 >>> 0) &&& 7)], 3, 0⟩ : BitPacker) := by with_unfolding_all rfl
  have key : (packSeq (BitPacker.new (List.replicate 3 0)) [(v0, 3), (v1, 3), (v2, 3), (v3, 3), (v4, 3), (v5, 3), (v6, 3), (v7, 3)]).bytes
      = [ u8 (v0 <<< 5) ||| (u8 (v1 <<< 2) &&& 31) ||| (u8 (v2 >>> 1) &&& 3),
          u8 (v2 <<< 7) ||| (u8 (v3 <<< 4) &&& 127) ||| (u8 (v4 <<< 1) &&& 15) ||| (u8 (v5 >>> 2) &&& 1),
          u8 (v5 <<< 6) ||| (u8 (v6 <<< 3) &&& 63) ||| (u8 (v7 >>> 0) &&& 7) ] := by
    simp only [packSeq, List.foldl]
    rw [e0, e1, e2, e3, e4, e5, e6, e7]
  have key2 : pack_bits_3 v0 v1 v2 v3 v4 v5 v6 v7
      = [ u8 (((((v0) &&& 0x7) <<< 5) ||| (((v1) &&& 0x7) <<< 2) ||| ((v2 >>> 1) &&& 0x3))),
          u8 (((((v2) &&& 0x1) <<< 7) ||| (((v3) &&& 0x7) <<< 4) ||| (((v4) &&& 0x7) <<< 1) ||| ((v5 >>> 2) &&& 0x1))),
          u8 (((((v5) &&& 0x3) <<< 6) ||| (((v6) &&& 0x7) <<< 3) ||| ((v7) &&& 0x7))) ] := rfl
  rw [key, key2]
  simp only [List.cons.injEq]
  refine ⟨?_, ?_, ?_, trivial⟩
  · rw [lor_eq_add (u8 (v0 <<< 5)) (u8 (v1 <<< 2) &&& 31) 5 (by
      simp (disch := omega) only [u8, Nat.lor_assoc, Nat.shiftLeft_eq,
          Nat.shiftRight_eq_div_pow, Nat.shiftRight_zero, land_mask1, land_mask3,
          land_mask7, land_mask15, land_mask31, land_mask63, land_mask127, land_mask255,
          lor_mul_pow, lor_add_mul_pow]
      omega) (by
      simp (disch := omega) only [u8, Nat.lor_assoc, Nat.shiftLeft_eq,
          Nat.shiftRight_eq_div_pow, Nat.shiftRight_zero, land_mask1, land_mask3,
          land_mask7, land_mask15, land_mask31, land_mask63, land_mask127, land_mask255,
          lor_mul_pow, lor_add_mul_pow]
      omega)]
    rw [lor_eq_add (u8 (v0 <<< 5) + (u8 (v1 <<< 2) &&& 31)) (u8 (v2 >>> 1) &&& 3) 2 (by
      simp (disch := omega) only [u8, Nat.lor_assoc, Nat.shiftLeft_eq,
          Nat.shiftRight_eq_div_pow, Nat.shiftRight_zero, land_mask1, land_mask3,
          land_mask7, land_mask15, land_mask31, land_mask63, land_mask127, land_mask255,
          lor_mul_pow, lor_add_mul_pow]
      omega) (by
      simp (disch := omega) only [u8, Nat.lor_assoc, Nat.shiftLeft_eq,
          Nat.shiftRight_eq_div_pow, Nat.shiftRight_zero, land_mask1, land_mask3,
          land_mask7, land_mask15, land_mask31, land_mask63, land_mask127, land_mask255,
          lor_mul_pow, lor_add_mul_pow]
      omega)]
    simp (disch := omega) only [u8, Nat.lor_assoc, Nat.shiftLeft_eq,
          Nat.shiftRight_eq_div_pow, Nat.shiftRight_zero, land_mask1, land_mask3,
          land_mask7, land_mask15, land_mask31, land_mask63, land_mask127, land_mask255,
          lor_mul_pow, lor_add_mul_pow]
    omega
  · rw [lor_eq_add (u8 (v2 <<< 7)) (u8 (v3 <<< 4) &&& 127) 7 (by
      simp (disch := omega) only [u8, Nat.lor_assoc, Nat.shiftLeft_eq,
          Nat.shiftRight_eq_div_pow, Nat.shiftRight_zero, land_mask1, land_mask3,
          land_mask7, land_mask15, land_mask31, land_mask63, land_mask127, land_mask255,
          lor_mul_pow, lor_add_mul_pow]
      omega) (by
      simp (disch := omega) only [u8, Nat.lor_assoc, Nat.shiftLeft_eq,
          Nat.shiftRight_eq_div_pow, Nat.shiftRight_zero, land_mask1, land_mask3,
          land_mask7, land_mask15, land_mask31, land_mask63, land_mask127, land_mask255,
          lor_mul_pow, lor_add_mul_pow]
      omega)]
    rw [lor_eq_add (u8 (v2 <<< 7) + (u8 (v3 <<< 4) &&& 127)) (u8 (v4 <<< 1) &&& 15) 4 (by
      simp (disch := omega) only [u8, Nat.lor_assoc, Nat.shiftLeft_eq,
          Nat.shiftRight_eq_div_pow, Nat.shiftRight_zero, land_mask1, land_mask3,
          land_mask7, land_mask15, land_mask31, land_mask63, land_mask127, land_mask255,
          lor_mul_pow, lor_add_mul_pow]
      omega) (by
      simp (disch := omega) only [u8, Nat.lor_assoc, Nat.shiftLeft_eq,
          Nat.shiftRight_eq_div_pow, Nat.shiftRight_zero, land_mask1, land_mask3,
          land_mask7, land_mask15, land_mask31, land_mask63, land_mask127, land_mask255,
          lor_mul_pow, lor_add_mul_pow]
      omega)]
    rw [lor_eq_add (u8 (v2 <<< 7) + (u8 (v3 <<< 4) &&& 127) + (u8 (v4 <<< 1) &&& 15)) (u8 (v5 >>> 2) &&& 1) 1 (by
      simp (disch := omega) only [u8, Nat.lor_assoc, Nat.shiftLeft_eq,
          Nat.shiftRight_eq_div_pow, Nat.shiftRight_zero, land_mask1, land_mask3,
          land_mask7, land_mask15, land_mask31, land_mask63, land_mask127, land_mask255,
          lor_mul_pow, lor_add_mul_pow]
      omega) (by
      simp (disch := omega) only [u8, Nat.lor_assoc, Nat.shiftLeft_eq,
          Nat.shiftRight_eq_div_pow, Nat.shiftRight_zero, land_mask1, land_mask3,
          land_mask7, land_mask15, land_mask31, land_mask63, land_mask127, land_mask255,
          lor_mul_pow, lor_add_mul_pow]
      omega)]
    simp (disch := omega) only [u8, Nat.lor_assoc, Nat.shiftLeft_eq,
          Nat.shiftRight_eq_div_pow, Nat.shiftRight_zero, land_mask1, land_mask3,
          land_mask7, land_mask15, land_mask31, land_mask63, land_mask127, land_mask255,
          lor_mul_pow, lor_add_mul_pow]
    omega
  · rw [lor_eq_add (u8 (v5 <<< 6)) (u8 (v6 <<< 3) &&& 63) 6 (by
      simp (disch := omega) only [u8, Nat.lor_assoc, Nat.shiftLeft_eq,
          Nat.shiftRight_eq_div_pow, Nat.shiftRight_zero, land_mask1, land_mask3,
          land_mask7, land_mask15, land_mask31, land_mask63, land_mask127, land_mask255,
          lor_mul_pow, lor_add_mul_pow]
      omega) (by
      simp (disch := omega) only [u8, Nat.lor_assoc, Nat.shiftLeft_eq,
          Nat.shiftRight_eq_div_pow, Nat.shiftRight_zero, land_mask1, land_mask3,
          land_mask7, land_mask15, land_mask31, land_mask63, land_mask127, land_mask255,
          lor_mul_pow, lor_add_mul_pow]
      omega)]
    rw [lor_eq_add (u8 (v5 <<< 6) + (u8 (v6 <<< 3) &&& 63)) (u8 (v7 >>> 0) &&& 7) 3 (by
      simp (disch := omega) only [u8, Nat.lor_assoc, Nat.shiftLeft_eq,
          Nat.shiftRight_eq_div_pow, Nat.shiftRight_zero, land_mask1, land_mask3,
          land_mask7, land_mask15, land_mask31, land_mask63, land_mask127, land_mask255,
          lor_mul_pow, lor_add_mul_pow]
      omega) (by
      simp (disch := omega) only [u8, Nat.lor_assoc, Nat.shiftLeft_eq,
          Nat.shiftRight_eq_div_pow, Nat.shiftRight_zero, land_mask1, land_mask3,
          land_mask7, land_mask15, land_mask31, land_mask63, land_mask127, land_mask255,
          lor_mul_pow, lor_add_mul_pow]
      omega)]
    simp (disch := omega) only [u8, Nat.lor_assoc, Nat.shiftLeft_eq,
          Nat.shiftRight_eq_div_pow, Nat.shiftRight_zero, land_mask1, land_mask3,
          land_mask7, land_mask15, land_mask31, land_mask63, land_mask127, land_mask255,
          lor_mul_pow, lor_add_mul_pow]
    omega

set_option maxHeartbeats 1600000 in
theorem c5_pack_eq_4 (v0 v1 v2 v3 v4 v5 v6 v7 : Nat) (hv0 : v0 < 2 ^ 4) (hv1 : v1 < 2 ^ 4) (hv2 : v2 < 2 ^ 4) (hv3 : v3 < 2 ^ 4) (hv4 : v4 < 2 ^ 4) (hv5 : v5 < 2 ^ 4) (hv6 : v6 < 2 ^ 4) (hv7 : v7 < 2 ^ 4) :
    (packSeq (BitPacker.new (List.replicate 4 0)) [(v0, 4), (v1, 4), (v2, 4), (v3, 4), (v4, 4), (v5, 4), (v6, 4), (v7, 4)]).bytes
      = pack_bits_4 v0 v1 v2 v3 v4 v5 v6 v7 := by
  have e0 : (BitPacker.new (List.replicate 4 0)).pack_value v0 4
      = (⟨[u8 (v0 <<< 4), 0, 0, 0], 0, 4⟩ : BitPacker) := by with_unfolding_all rfl
  have e1 : (⟨[u8 (v0 <<< 4), 0, 0, 0], 0, 4⟩ : BitPacker).pack_value v1 4
      = (⟨[u8 (v0 <<< 4) ||| (u8 (v1 >>> 0) &&& 15), 0, 0, 0], 1, 0⟩ : BitPacker) := by with_unfolding_all rfl
  have e2 : (⟨[u8 (v0 <<< 4) ||| (u8 (v1 >>> 0) &&& 15), 0, 0, 0], 1, 0⟩ : BitPacker).pack_value v2 4
      = (⟨[u8 (v0 <<< 4) ||| (u8 (v1 >>> 0) &&& 15), u8 (v2 <<< 4), 0, 0], 1, 4⟩ : BitPacker) := by with_unfolding_all rfl
  have e3 : (⟨[u8 (v0 <<< 4) ||| (u8 (v1 >>> 0) &&& 15), u8 (v2 <<< 4), 0, 0], 1, 4⟩ : BitPacker).pack_value v3 4
      = (⟨[u8 (v0 <<< 4) ||| (u8 (v1 >>> 0) &&& 15), u8 (v2 <<< 4) ||| (u8 (v3 >>> 0) &&& 15), 0, 0], 2, 0⟩ : BitPacker) := by with_unfolding_all rfl
  have e4 : (⟨[u8 (v0 <<< 4) ||| (u8 (v1 >>> 0) &&& 15), u8 (v2 <<< 4) ||| (u8 (v3 >>> 0) &&& 15), 0, 0], 2, 0⟩ : BitPacker).pack_value v4 4
      = (⟨[u8 (v0 <<< 4) ||| (u8 (v1 >>> 0) &&& 15), u8 (v2 <<< 4) ||| (u8 (v3 >>> 0) &&& 15), u8 (v4 <<< 4), 0], 2, 4⟩ : BitPacker) := by with_unfolding_all rfl
  have e5 : (⟨[u8 (v0 <<< 4) ||| (u8 (v1 >>> 0) &&& 15), u8 (v2 <<< 4) ||| (u8 (v3 >>> 0) &&& 15), u8 (v4 <<< 4), 0], 2, 4⟩ : BitPacker).pack_value v5 4
      = (⟨[u8 (v0 <<< 4) ||| (u8 (v1 >>> 0) &&& 15), u8 (v2 <<< 4) ||| (u8 (v3 >>> 0) &&& 15), u8 (v4 <<< 4) ||| (u8 (v5 >>> 0) &&& 15), 0], 3, 0⟩ : BitPacker) := by with_unfolding_all rfl
  have e6 : (⟨[u8 (v0 <<< 4) ||| (u8 (v1 >>> 0) &&& 15), u8 (v2 <<< 4) ||| (u8 (v3 >>> 0) &&& 15), u8 (v4 <<< 4) ||| (u8 (v5 >>> 0) &&& 15), 0], 3, 0⟩ : BitPacker).pack_value v6 4
      = (⟨[u8 (v0 <<< 4) ||| (u8 (v1 >>> 0) &&& 15), u8 (v2 <<< 4) ||| (u8 (v3 >>> 0) &&& 15), u8 (v4 <<< 4) ||| (u8 (v5 >>> 0) &&& 15), u8 (v6 <<< 4)], 3, 4⟩ : BitPacker) := by with_unfolding_all rfl
  have e7 : (⟨[u8 (v0 <<< 4) ||| (u8 (v1 >>> 0) &&& 15), u8 (v2 <<< 4) ||| (u8 (v3 >>> 0) &&& 15), u8 (v4 <<< 4) ||| (u8 (v5 >>> 0) &&& 15), u8 (v6 <<< 4)], 3, 4⟩ : BitPacker).pack_value v7 4
      = (⟨[u8 (v0 <<< 4) ||| (u8 (v1 >>> 0) &&& 15), u8 (v2 <<< 4) ||| (u8 (v3 >>> 0) &&& 15), u8 (v4 <<< 4) ||| (u8 (v5 >>> 0) &&& 15), u8 (v6 <<< 4) ||| (u8 (v7 >>> 0) &&& 15)], 4, 0⟩ : BitPacker) := by with_unfolding_all rfl
  have key : (packSeq (BitPacker.new (List.replicate 4 0)) [(v0, 4), (v1, 4), (v2, 4), (v3, 4), (v4, 4), (v5, 4), (v6, 4), (v7, 4)]).bytes
      = [ u8 (v0 <<< 4) ||| (u8 (v1 >>> 0) &&& 15),
          u8 (v2 <<< 4) ||| (u8 (v3 >>> 0) &&& 15),
          u8 (v4 <<< 4) ||| (u8 (v5 >>> 0) &&& 15),
          u8 (v6 <<< 4) ||| (u8 (v7 >>> 0) &&& 15) ] := by
    simp only [packSeq, List.foldl]
    rw [e0, e1, e2, e3, e4, e5, e6, e7]
  have key2 : pack_bits_4 v0 v1 v2 v3 v4 v5 v6 v7
      = [ u8 (((((v0) &&& 0xf) <<< 4) ||| ((v1) &&& 0xf))),
          u8 (((((v2) &&& 0xf) <<< 4) ||| ((v3) &&& 0xf))),
          u8 (((((v4) &&& 0xf) <<< 4) ||| ((v5) &&& 0xf))),
          u8 (((((v6) &&& 0xf) <<< 4) ||| ((v7) &&& 0xf))) ] := rfl
  rw [key, key2]
  simp only [List.cons.injEq]
  refine ⟨?_, ?_, ?_, ?_, trivial⟩
  · rw [lor_eq_add (u8 (v0 <<< 4)) (u8 (v1 >>> 0) &&& 15) 4 (by
      simp (disch := omega) only [u8, Nat.lor_assoc, Nat.shiftLeft_eq,
          Nat.shiftRight_eq_div_pow, Nat.shiftRight_zero, land_mask1, land_mask3,
          land_mask7, land_mask15, land_mask31, land_mask63, land_mask127, land_mask255,
          lor_mul_pow, lor_add_mul_pow]
      omega) (by
      simp (disch := omega) only [u8, Nat.lor_assoc, Nat.shiftLeft_eq,
          Nat.shiftRight_eq_div_pow, Nat.shiftRight_zero, land_mask1, land_mask3,
          land_mask7, land_mask15, land_mask31, land_mask63, land_mask127, land_mask255,
          lor_mul_pow, lor_add_mul_pow]
      omega)]
    simp (disch := omega) only [u8, Nat.lor_assoc, Nat.shiftLeft_eq,
          Nat.shiftRight_eq_div_pow, Nat.shiftRight_zero, land_mask1, land_mask3,
          land_mask7, land_mask15, land_mask31, land_mask63, land_mask127, land_mask255,
          lor_mul_pow, lor_add_mul_pow]
    omega
  · rw [lor_eq_add (u8 (v2 <<< 4)) (u8 (v3 >>> 0) &&& 15) 4 (by
      simp (disch := omega) only [u8, Nat.lor_assoc, Nat.shiftLeft_eq,
          Nat.shiftRight_eq_div_pow, Nat.shiftRight_zero, land_mask1, land_mask3,
          land_mask7, land_mask15, land_mask31, land_mask63, land_mask127, land_mask255,
          lor_mul_pow, lor_add_mul_pow]
      omega) (by
      simp (disch := omega) only [u8, Nat.lor_assoc, Nat.shiftLeft_eq,
          Nat.shiftRight_eq_div_pow, Nat.shiftRight_zero, land_mask1, land_mask3,
          land_mask7, land_mask15, land_mask31, land_mask63, land_mask127, land_mask255,
          lor_mul_pow, lor_add_mul_pow]
      omega)]
    simp (disch := omega) only [u8, Nat.lor_assoc, Nat.shiftLeft_eq,
          Nat.shiftRight_eq_div_pow, Nat.shiftRight_zero, land_mask1, land_mask3,
          land_mask7, land_mask15, land_mask31, land_mask63, land_mask127, land_mask255,
          lor_mul_pow, lor_add_mul_pow]
    omega
  · rw [lor_eq_add (u8 (v4 <<< 4)) (u8 (v5 >>> 0) &&& 15) 4 (by
      simp (disch := omega) only [u8, Nat.lor_assoc, Nat.shiftLeft_eq,
          Nat.shiftRight_eq_div_pow, Nat.shiftRight_zero, land_mask1, land_mask3,
          land_mask7, land_mask15, land_mask31, land_mask63, land_mask127, land_mask255,
          lor_mul_pow, lor_add_mul_pow]
      omega) (by
      simp (disch := omega) only [u8, Nat.lor_assoc, Nat.shiftLeft_eq,
          Nat.shiftRight_eq_div_pow, Nat.shiftRight_zero, land_mask1, land_mask3,
          land_mask7, land_mask15, land_mask31, land_mask63, land_mask127, land_mask255,
          lor_mul_pow, lor_add_mul_pow]
      omega)]
    simp (disch := omega) only [u8, Nat.lor_assoc, Nat.shiftLeft_eq,
          Nat.shiftRight_eq_div_pow, Nat.shiftRight_zero, land_mask1, land_mask3,
          land_mask7, land_mask15, land_mask31, land_mask63, land_mask127, land_mask255,
          lor_mul_pow, lor_add_mul_pow]
    omega
  · rw [lor_eq_add (u8 (v6 <<< 4)) (u8 (v7 >>> 0) &&& 15) 4 (by
      simp (disch := omega) only [u8, Nat.lor_assoc, Nat.shiftLeft_eq,
          Nat.shiftRight_eq_div_pow, Nat.shiftRight_zero, land_mask1, land_mask3,
          land_mask7, land_mask15, land_mask31, land_mask63, land_mask127, land_mask255,
          lor_mul_pow, lor_add_mul_pow]
      omega) (by
      simp (disch := omega) only [u8, Nat.lor_assoc, Nat.shiftLeft_eq,
          Nat.shiftRight_eq_div_pow, Nat.shiftRight_zero, land_mask1, land_mask3,
          land_mask7, land_mask15, land_mask31, land_mask63, land_mask127, land_mask255,
          lor_mul_pow, lor_add_mul_pow]
      omega)]
    simp (disch := omega) only [u8, Nat.lor_assoc, Nat.shiftLeft_eq,
          Nat.shiftRight_eq_div_pow, Nat.shiftRight_zero, land_mask1, land_mask3,
          land_mask7, land_mask15, land_mask31, land_mask63, land_mask127, land_mask255,
          lor_mul_pow, lor_add_mul_pow]
    omega

set_option maxHeartbeats 1600000 in
theorem c5_pack_eq_5 (v0 v1 v2 v3 v4 v5 v6 v7 : Nat) (hv0 : v0 < 2 ^ 5) (hv1 : v1 < 2 ^ 5) (hv2 : v2 < 2 ^ 5) (hv3 : v3 < 2 ^ 5) (hv4 : v4 < 2 ^ 5) (hv5 : v5 < 2 ^ 5) (hv6 : v6 < 2 ^ 5) (hv7 : v7 < 2 ^ 5) :
    (packSeq (BitPacker.new (List.replicate 5 0)) [(v0, 5), (v1, 5), (v2, 5), (v3, 5), (v4, 5), (v5, 5), (v6, 5), (v7, 5)]).bytes
      = pack_bits_5 v0 v1 v2 v3 v4 v5 v6 v7 := by
  have e0 : (BitPacker.new (List.replicate 5 0)).pack_value v0 5
      = (⟨[u8 (v0 <<< 3), 0, 0, 0, 0], 0, 5⟩ : BitPacker) := by with_unfolding_all rfl
  have e1 : (⟨[u8 (v0 <<< 3), 0, 0, 0, 0], 0, 5⟩ : BitPacker).pack_value v1 5
      = (⟨[u8 (v0 <<< 3) ||| (u8 (v1 >>> 2) &&& 7), u8 (v1 <<< 6), 0, 0, 0], 1, 2⟩ : BitPacker) := by with_unfolding_all rfl
  have e2 : (⟨[u8 (v0 <<< 3) ||| (u8 (v1 >>> 2) &&& 7), u8 (v1 <<< 6), 0, 0, 0], 1, 2⟩ : BitPacker).pack_value v2 5
      = (⟨[u8 (v0 <<< 3) ||| (u8 (v1 >>> 2) &&& 7), u8 (v1 <<< 6) ||| (u8 (v2 <<< 1) &&& 63), 0, 0, 0], 1, 7⟩ : BitPacker) := by with_unfolding_all rfl
  have e3 : (⟨[u8 (v0 <<< 3) ||| (u8 (v1 >>> 2) &&& 7), u8 (v1 <<< 6) ||| (u8 (v2 <<< 1) &&& 63), 0, 0, 0], 1, 7⟩ : BitPacker).pack_value v3 5
      = (⟨[u8 (v0 <<< 3) ||| (u8 (v1 >>> 2) &&& 7), u8 (v1 <<< 6) ||| (u8 (v2 <<< 1) &&& 63) ||| (u8 (v3 >>> 4) &&& 1), u8 (v3 <<< 4), 0, 0], 2, 4⟩ : BitPacker) := by with_unfolding_all rfl
  have e4 : (⟨[u8 (v0 <<< 3) ||| (u8 (v1 >>> 2) &&& 7), u8 (v1 <<< 6) ||| (u8 (v2 <<< 1) &&& 63) ||| (u8 (v3 >>> 4) &&& 1), u8 (v3 <<< 4), 0, 0], 2, 4⟩ : BitPacker).pack_value v4 5
      = (⟨[u8 (v0 <<< 3) ||| (u8 (v1 >>> 2) &&& 7), u8 (v1 <<< 6) ||| (u8 (v2 <<< 1) &&& 63) ||| (u8 (v3 >>> 4) &&& 1), u8 (v3 <<< 4) ||| (u8 (v4 >>> 1) &&& 15), u8 (v4 <<< 7), 0], 3, 1⟩ : BitPacker) := by with_unfolding_all rfl
  have e5 : (⟨[u8 (v0 <<< 3) ||| (u8 (v1 >>> 2) &&& 7), u8 (v1 <<< 6) ||| (u8 (v2 <<< 1) &&& 63) ||| (u8 (v3 >>> 4) &&& 1), u8 (v3 <<< 4) ||| (u8 (v4 >>> 1) &&& 15), u8 (v4 <<< 7), 0], 3, 1⟩ : BitPacker).pack_value v5 5
      = (⟨[u8 (v0 <<< 3) ||| (u8 (v1 >>> 2) &&& 7), u8 (v1 <<< 6) ||| (u8 (v2 <<< 1) &&& 63) ||| (u8 (v3 >>> 4) &&& 1), u8 (v3 <<< 4) ||| (u8 (v4 >>> 1) &&& 15), u8 (v4 <<< 7) ||| (u8 (v5 <<< 2) &&& 127), 0], 3, 6⟩ : BitPacker) := by with_unfolding_all rfl
  have e6 : (⟨[u8 (v0 <<< 3) ||| (u8 (v1 >>> 2) &&& 7), u8 (v1 <<< 6) ||| (u8 (v2 <<< 1) &&& 63) ||| (u8 (v3 >>> 4) &&& 1), u8 (v3 <<< 4) ||| (u8 (v4 >>> 1) &&& 15), u8 (v4 <<< 7) ||| (u8 (v5 <<< 2) &&& 127), 0], 3, 6⟩ : BitPacker).pack_value v6 5
      = (⟨[u8 (v0 <<< 3) ||| (u8 (v1 >>> 2) &&& 7), u8 (v1 <<< 6) ||| (u8 (v2 <<< 1) &&& 63) ||| (u8 (v3 >>> 4) &&& 1), u8 (v3 <<< 4) ||| (u8 (v4 >>> 1) &&& 15), u8 (v4 <<< 7) ||| (u8 (v5 <<< 2) &&& 127) ||| (u8 (v6 >>> 3) &&& 3), u8 (v6 <<< 5)], 4, 3⟩ : BitPacker) := by with_unfolding_all rfl
  have e7 : (⟨[u8 (v0 <<< 3) ||| (u8 (v1 >>> 2) &&& 7), u8 (v1 <<< 6) ||| (u8 (v2 <<< 1) &&& 63) ||| (u8 (v3 >>> 4) &&& 1), u8 (v3 <<< 4) ||| (u8 (v4 >>> 1) &&& 15), u8 (v4 <<< 7) ||| (u8 (v5 <<< 2) &&& 127) ||| (u8 (v6 >>> 3) &&& 3), u8 (v6 <<< 5)], 4, 3⟩ : BitPacker).pack_value v7 5
      = (⟨[u8 (v0 <<< 3) ||| (u8 (v1 >>> 2) &&& 7), u8 (v1 <<< 6) ||| (u8 (v2 <<< 1) &&& 63) ||| (u8 (v3 >>> 4) &&& 1), u8 (v3 <<< 4) ||| (u8 (v4 >>> 1) &&& 15), u8 (v4 <<< 7) ||| (u8 (v5 <<< 2) &&& 127) ||| (u8 (v6 >>> 3) &&& 3), u8 (v6 <<< 5) ||| (u8 (v7 >>> 0) &&& 31)], 5, 0⟩ : BitPacker) := by with_unfolding_all rfl
  have key : (packSeq (BitPacker.new (List.replicate 5 0)) [(v0, 5), (v1, 5), (v2, 5), (v3, 5), (v4, 5), (v5, 5), (v6, 5), (v7, 5)]).bytes
      = [ u8 (v0 <<< 3) ||| (u8 (v1 >>> 2) &&& 7),
          u8 (v1 <<< 6) ||| (u8 (v2 <<< 1) &&& 63) ||| (u8 (v3 >>> 4) &&& 1),
          u8 (v3 <<< 4) ||| (u8 (v4 >>> 1) &&& 15),
          u8 (v4 <<< 7) ||| (u8 (v5 <<< 2) &&& 127) ||| (u8 (v6 >>> 3) &&& 3),
          u8 (v6 <<< 5) ||| (u8 (v7 >>> 0) &&& 31) ] := by
    simp only [packSeq, List.foldl]
    rw [e0, e1, e2, e3, e4, e5, e6, e7]
  have key2 : pack_bits_5 v0 v1 v2 v3 v4 v5 v6 v7
      = [ u8 (((((v0) &&& 0x1f) <<< 3) ||| ((v1 >>> 2) &&& 0x7))),
          u8 (((((v1) &&& 0x3) <<< 6) ||| (((v2) &&& 0x1f) <<< 1) ||| ((v3 >>> 4) &&& 0x1))),
          u8 (((((v3) &&& 0xf) <<< 4) ||| ((v4 >>> 1) &&& 0xf))),
          u8 (((((v4) &&& 0x1) <<< 7) ||| (((v5) &&& 0x1f) <<< 2) ||| ((v6 >>> 3) &&& 0x3))),
          u8 (((((v6) &&& 0x7) <<< 5) ||| ((v7) &&& 0x1f))) ] := rfl
  rw [key, key2]
  simp only [List.cons.injEq]
  refine ⟨?_, ?_, ?_, ?_, ?_, trivial⟩
  · rw [lor_eq_add (u8 (v0 <<< 3)) (u8 (v1 >>> 2) &&& 7) 3 (by
      simp (disch := omega) only [u8, Nat.lor_assoc, Nat.shiftLeft_eq,
          Nat.shiftRight_eq_div_pow, Nat.shiftRight_zero, land_mask1, land_mask3,
          land_mask7, land_mask15, land_mask31, land_mask63, land_mask127, land_mask255,
          lor_mul_pow, lor_add_mul_pow]
      omega) (by
      simp (disch := omega) only [u8, Nat.lor_assoc, Nat.shiftLeft_eq,
          Nat.shiftRight_eq_div_pow, Nat.shiftRight_zero, land_mask1, land_mask3,
          land_mask7, land_mask15, land_mask31, land_mask63, land_mask127, land_mask255,
          lor_mul_pow, lor_add_mul_pow]
      omega)]
    simp (disch := omega) only [u8, Nat.lor_assoc, Nat.shiftLeft_eq,
          Nat.shiftRight_eq_div_pow, Nat.shiftRight_zero, land_mask1, land_mask3,
          land_mask7, land_mask15, land_mask31, land_mask63, land_mask127, land_mask255,
          lor_mul_pow, lor_add_mul_pow]
    omega
  · rw [lor_eq_add (u8 (v1 <<< 6)) (u8 (v2 <<< 1) &&& 63) 6 (by
      simp (disch := omega) only [u8, Nat.lor_assoc, Nat.shiftLeft_eq,
          Nat.shiftRight_eq_div_pow, Nat.shiftRight_zero, land_mask1, land_mask3,
          land_mask7, land_mask15, land_mask31, land_mask63, land_mask127, land_mask255,
          lor_mul_pow, lor_add_mul_pow]
      omega) (by
      simp (disch := omega) only [u8, Nat.lor_assoc, Nat.shiftLeft_eq,
          Nat.shiftRight_eq_div_pow, Nat.shiftRight_zero, land_mask1, land_mask3,
          land_mask7, land_mask15, land_mask31, land_mask63, land_mask127, land_mask255,
          lor_mul_pow, lor_add_mul_pow]
      omega)]
    rw [lor_eq_add (u8 (v1 <<< 6) + (u8 (v2 <<< 1) &&& 63)) (u8 (v3 >>> 4) &&& 1) 1 (by
      simp (disch := omega) only [u8, Nat.lor_assoc, Nat.shiftLeft_eq,
          Nat.shiftRight_eq_div_pow, Nat.shiftRight_zero, land_mask1, land_mask3,
          land_mask7, land_mask15, land_mask31, land_mask63, land_mask127, land_mask255,
          lor_mul_pow, lor_add_mul_pow]
      omega) (by
      simp (disch := omega) only [u8, Nat.lor_assoc, Nat.shiftLeft_eq,
          Nat.shiftRight_eq_div_pow, Nat.shiftRight_zero, land_mask1, land_mask3,
          land_mask7, land_mask15, land_mask31, land_mask63, land_mask127, land_mask255,
          lor_mul_pow, lor_add_mul_pow]
      omega)]
    simp (disch := omega) only [u8, Nat.lor_assoc, Nat.shiftLeft_eq,
          Nat.shiftRight_eq_div_pow, Nat.shiftRight_zero, land_mask1, land_mask3,
          land_mask7, land_mask15, land_mask31, land_mask63, land_mask127, land_mask255,
          lor_mul_pow, lor_add_mul_pow]
    omega
  · rw [lor_eq_add (u8 (v3 <<< 4)) (u8 (v4 >>> 1) &&& 15) 4 (by
      simp (disch := omega) only [u8, Nat.lor_assoc, Nat.shiftLeft_eq,
          Nat.shiftRight_eq_div_pow, Nat.shiftRight_zero, land_mask1, land_mask3,
          land_mask7, land_mask15, land_mask31, land_mask63, land_mask127, land_mask255,
          lor_mul_pow, lor_add_mul_pow]
      omega) (by
      simp (disch := omega) only [u8, Nat.lor_assoc, Nat.shiftLeft_eq,
          Nat.shiftRight_eq_div_pow, Nat.shiftRight_zero, land_mask1, land_mask3,
          land_mask7, land_mask15, land_mask31, land_mask63, land_mask127, land_mask255,
          lor_mul_pow, lor_add_mul_pow]
      omega)]
    simp (disch := omega) only [u8, Nat.lor_assoc, Nat.shiftLeft_eq,
          Nat.shiftRight_eq_div_pow, Nat.shiftRight_zero, land_mask1, land_mask3,
          land_mask7, land_mask15, land_mask31, land_mask63, land_mask127, land_mask255,
          lor_mul_pow, lor_add_mul_pow]
    omega
  · rw [lor_eq_add (u8 (v4 <<< 7)) (u8 (v5 <<< 2) &&& 127) 7 (by
      simp (disch := omega) only [u8, Nat.lor_assoc, Nat.shiftLeft_eq,
          Nat.shiftRight_eq_div_pow, Nat.shiftRight_zero, land_mask1, land_mask3,
          land_mask7, land_mask15, land_mask31, land_mask63, land_mask127, land_mask255,
          lor_mul_pow, lor_add_mul_pow]
      omega) (by
      simp (disch := omega) only [u8, Nat.lor_assoc, Nat.shiftLeft_eq,
          Nat.shiftRight_eq_div_pow, Nat.shiftRight_zero, land_mask1, land_mask3,
          land_mask7, land_mask15, land_mask31, land_mask63, land_mask127, land_mask255,
          lor_mul_pow, lor_add_mul_pow]
      omega)]
    rw [lor_eq_add (u8 (v4 <<< 7) + (u8 (v5 <<< 2) &&& 127)) (u8 (v6 >>> 3) &&& 3) 2 (by
      simp (disch := omega) only [u8, Nat.lor_assoc, Nat.shiftLeft_eq,
          Nat.shiftRight_eq_div_pow, Nat.shiftRight_zero, land_mask1, land_mask3,
          land_mask7, land_mask15, land_mask31, land_mask63, land_mask127, land_mask255,
          lor_mul_pow, lor_add_mul_pow]
      omega) (by
      simp (disch := omega) only [u8, Nat.lor_assoc, Nat.shiftLeft_eq,
          Nat.shiftRight_eq_div_pow, Nat.shiftRight_zero, land_mask1, land_mask3,
          land_mask7, land_mask15, land_mask31, land_mask63, land_mask127, land_mask255,
          lor_mul_pow, lor_add_mul_pow]
      omega)]
    simp (disch := omega) only [u8, Nat.lor_assoc, Nat.shiftLeft_eq,
          Nat.shiftRight_eq_div_pow, Nat.shiftRight_zero, land_mask1, land_mask3,
          land_mask7, land_mask15, land_mask31, land_mask63, land_mask127, land_mask255,
          lor_mul_pow, lor_add_mul_pow]
    omega
  · rw [lor_eq_add (u8 (v6 <<< 5)) (u8 (v7 >>> 0) &&& 31) 5 (by
      simp (disch := omega) only [u8, Nat.lor_assoc, Nat.shiftLeft_eq,
          Nat.shiftRight_eq_div_pow, Nat.shiftRight_zero, land_mask1, land_mask3,
          land_mask7, land_mask15, land_mask31, land_mask63, land_mask127, land_mask255,
          lor_mul_pow, lor_add_mul_pow]
      omega) (by
      simp (disch := omega) only [u8, Nat.lor_assoc, Nat.shiftLeft_eq,
          Nat.shiftRight_eq_div_pow, Nat.shiftRight_zero, land_mask1, land_mask3,
          land_mask7, land_mask15, land_mask31, land_mask63, land_mask127, land_mask255,
          lor_mul_pow, lor_add_mul_pow]
      omega)]
    simp (disch := omega) only [u8, Nat.lor_assoc, Nat.shiftLeft_eq,
          Nat.shiftRight_eq_div_pow, Nat.shiftRight_zero, land_mask1, land_mask3,
          land_mask7, land_mask15, land_mask31, land_mask63, land_mask127, land_mask255,
          lor_mul_pow, lor_add_mul_pow]
    omega

set_option maxHeartbeats 1600000 in
theorem c5_pack_eq_6 (v0 v1 v2 v3 v4 v5 v6 v7 : Nat) (hv0 : v0 < 2 ^ 6) (hv1 : v1 < 2 ^ 6) (hv2 : v2 < 2 ^ 6) (hv3 : v3 < 2 ^ 6) (hv4 : v4 < 2 ^ 6) (hv5 : v5 < 2 ^ 6) (hv6 : v6 < 2 ^ 6) (hv7 : v7 < 2 ^ 6) :
    (packSeq (BitPacker.new (List.replicate 6 0)) [(v0, 6), (v1, 6), (v2, 6), (v3, 6), (v4, 6), (v5, 6), (v6, 6), (v7, 6)]).bytes
      = pack_bits_6 v0 v1 v2 v3 v4 v5 v6 v7 := by
  have e0 : (BitPacker.new (List.replicate 6 0)).pack_value v0 6
      = (⟨[u8 (v0 <<< 2), 0, 0, 0, 0, 0], 0, 6⟩ : BitPacker) := by with_unfolding_all rfl
  have e1 : (⟨[u8 (v0 <<< 2), 0, 0, 0, 0, 0], 0, 6⟩ : BitPacker).pack_value v1 6
      = (⟨[u8 (v0 <<< 2) ||| (u8 (v1 >>> 4) &&& 3), u8 (v1 <<< 4), 0, 0, 0, 0], 1, 4⟩ : BitPacker) := by with_unfolding_all rfl
  have e2 : (⟨[u8 (v0 <<< 2) ||| (u8 (v1 >>> 4) &&& 3), u8 (v1 <<< 4), 0, 0, 0, 0], 1, 4⟩ : BitPacker).pack_value v2 6
      = (⟨[u8 (v0 <<< 2) ||| (u8 (v1 >>> 4) &&& 3), u8 (v1 <<< 4) ||| (u8 (v2 >>> 2) &&& 15), u8 (v2 <<< 6), 0, 0, 0], 2, 2⟩ : BitPacker) := by with_unfolding_all rfl
  have e3 : (⟨[u8 (v0 <<< 2) ||| (u8 (v1 >>> 4) &&& 3), u8 (v1 <<< 4) ||| (u8 (v2 >>> 2) &&& 15), u8 (v2 <<< 6), 0, 0, 0], 2, 2⟩ : BitPacker).pack_value v3 6
      = (⟨[u8 (v0 <<< 2) ||| (u8 (v1 >>> 4) &&& 3), u8 (v1 <<< 4) ||| (u8 (v2 >>> 2) &&& 15), u8 (v2 <<< 6) ||| (u8 (v3 >>> 0) &&& 63), 0, 0, 0], 3, 0⟩ : BitPacker) := by with_unfolding_all rfl
  have e4 : (⟨[u8 (v0 <<< 2) ||| (u8 (v1 >>> 4) &&& 3), u8 (v1 <<< 4) ||| (u8 (v2 >>> 2) &&& 15), u8 (v2 <<< 6) ||| (u8 (v3 >>> 0) &&& 63), 0, 0, 0], 3, 0⟩ : BitPacker).pack_value v4 6
      = (⟨[u8 (v0 <<< 2) ||| (u8 (v1 >>> 4) &&& 3), u8 (v1 <<< 4) ||| (u8 (v2 >>> 2) &&& 15), u8 (v2 <<< 6) ||| (u8 (v3 >>> 0) &&& 63), u8 (v4 <<< 2), 0, 0], 3, 6⟩ : BitPacker) := by with_unfolding_all rfl
  have e5 : (⟨[u8 (v0 <<< 2) ||| (u8 (v1 >>> 4) &&& 3), u8 (v1 <<< 4) ||| (u8 (v2 >>> 2) &&& 15), u8 (v2 <<< 6) ||| (u8 (v3 >>> 0) &&& 63), u8 (v4 <<< 2), 0, 0], 3, 6⟩ : BitPacker).pack_value v5 6
      = (⟨[u8 (v0 <<< 2) ||| (u8 (v1 >>> 4) &&& 3), u8 (v1 <<< 4) ||| (u8 (v2 >>> 2) &&& 15), u8 (v2 <<< 6) ||| (u8 (v3 >>> 0) &&& 63), u8 (v4 <<< 2) ||| (u8 (v5 >>> 4) &&& 3), u8 (v5 <<< 4), 0], 4, 4⟩ : BitPacker) := by with_unfolding_all rfl
  have e6 : (⟨[u8 (v0 <<< 2) ||| (u8 (v1 >>> 4) &&& 3), u8 (v1 <<< 4) ||| (u8 (v2 >>> 2) &&& 15), u8 (v2 <<< 6) ||| (u8 (v3 >>> 0) &&& 63), u8 (v4 <<< 2) ||| (u8 (v5 >>> 4) &&& 3), u8 (v5 <<< 4), 0], 4, 4⟩ : BitPacker).pack_value v6 6
      = (⟨[u8 (v0 <<< 2) ||| (u8 (v1 >>> 4) &&& 3), u8 (v1 <<< 4) ||| (u8 (v2 >>> 2) &&& 15), u8 (v2 <<< 6) ||| (u8 (v3 >>> 0) &&& 63), u8 (v4 <<< 2) ||| (u8 (v5 >>> 4) &&& 3), u8 (v5 <<< 4) ||| (u8 (v6 >>> 2) &&& 15), u8 (v6 <<< 6)], 5, 2⟩ : BitPacker) := by with_unfolding_all rfl
  have e7 : (⟨[u8 (v0 <<< 2) ||| (u8 (v1 >>> 4) &&& 3), u8 (v1 <<< 4) ||| (u8 (v2 >>> 2) &&& 15), u8 (v2 <<< 6) ||| (u8 (v3 >>> 0) &&& 63), u8 (v4 <<< 2) ||| (u8 (v5 >>> 4) &&& 3), u8 (v5 <<< 4) ||| (u8 (v6 >>> 2) &&& 15), u8 (v6 <<< 6)], 5, 2⟩ : BitPacker).pack_value v7 6
      = (⟨[u8 (v0 <<< 2) ||| (u8 (v1 >>> 4) &&& 3), u8 (v1 <<< 4) ||| (u8 (v2 >>> 2) &&& 15), u8 (v2 <<< 6) ||| (u8 (v3 >>> 0) &&& 63), u8 (v4 <<< 2) ||| (u8 (v5 >>> 4) &&& 3), u8 (v5 <<< 4) ||| (u8 (v6 >>> 2) &&& 15), u8 (v6 <<< 6) ||| (u8 (v7 >>> 0) &&& 63)], 6, 0⟩ : BitPacker) := by with_unfolding_all rfl
  have key : (packSeq (BitPacker.new (List.replicate 6 0)) [(v0, 6), (v1, 6), (v2, 6), (v3, 6), (v4, 6), (v5, 6), (v6, 6), (v7, 6)]).bytes
      = [ u8 (v0 <<< 2) ||| (u8 (v1 >>> 4) &&& 3),
          u8 (v1 <<< 4) ||| (u8 (v2 >>> 2) &&& 15),
          u8 (v2 <<< 6) ||| (u8 (v3 >>> 0) &&& 63),
          u8 (v4 <<< 2) ||| (u8 (v5 >>> 4) &&& 3),
          u8 (v5 <<< 4) ||| (u8 (v6 >>> 2) &&& 15),
          u8 (v6 <<< 6) ||| (u8 (v7 >>> 0) &&& 63) ] := by
    simp only [packSeq, List.foldl]
    rw [e0, e1, e2, e3, e4, e5, e6, e7]
  have key2 : pack_bits_6 v0 v1 v2 v3 v4 v5 v6 v7
      = [ u8 (((((v0) &&& 0x3f) <<< 2) ||| ((v1 >>> 4) &&& 0x3))),
          u8 (((((v1) &&& 0xf) <<< 4) ||| ((v2 >>> 2) &&& 0xf))),
          u8 (((((v2) &&& 0x3) <<< 6) ||| ((v3) &&& 0x3f))),
          u8 (((((v4) &&& 0x3f) <<< 2) ||| ((v5 >>> 4) &&& 0x3))),
          u8 (((((v5) &&& 0xf) <<< 4) ||| ((v6 >>> 2) &&& 0xf))),
          u8 (((((v6) &&& 0x3) <<< 6) ||| ((v7) &&& 0x3f))) ] := rfl
  rw [key, key2]
  simp only [List.cons.injEq]
  refine ⟨?_, ?_, ?_, ?_, ?_, ?_, trivial⟩
  · rw [lor_eq_add (u8 (v0 <<< 2)) (u8 (v1 >>> 4) &&& 3) 2 (by
      simp (disch := omega) only [u8, Nat.lor_assoc, Nat.shiftLeft_eq,
          Nat.shiftRight_eq_div_pow, Nat.shiftRight_zero, land_mask1, land_mask3,
          land_mask7, land_mask15, land_mask31, land_mask63, land_mask127, land_mask255,
          lor_mul_pow, lor_add_mul_pow]
      omega) (by
      simp (disch := omega) only [u8, Nat.lor_assoc, Nat.shiftLeft_eq,
          Nat.shiftRight_eq_div_pow, Nat.shiftRight_zero, land_mask1, land_mask3,
          land_mask7, land_mask15, land_mask31, land_mask63, land_mask127, land_mask255,
          lor_mul_pow, lor_add_mul_pow]
      omega)]
    simp (disch := omega) only [u8, Nat.lor_assoc, Nat.shiftLeft_eq,
          Nat.shiftRight_eq_div_pow, Nat.shiftRight_zero, land_mask1, land_mask3,
          land_mask7, land_mask15, land_mask31, land_mask63, land_mask127, land_mask255,
          lor_mul_pow, lor_add_mul_pow]
    omega
  · rw [lor_eq_add (u8 (v1 <<< 4)) (u8 (v2 >>> 2) &&& 15) 4 (by
      simp (disch := omega) only [u8, Nat.lor_assoc, Nat.shiftLeft_eq,
          Nat.shiftRight_eq_div_pow, Nat.shiftRight_zero, land_mask1, land_mask3,
          land_mask7, land_mask15, land_mask31, land_mask63, land_mask127, land_mask255,
          lor_mul_pow, lor_add_mul_pow]
      omega) (by
      simp (disch := omega) only [u8, Nat.lor_assoc, Nat.shiftLeft_eq,
          Nat.shiftRight_eq_div_pow, Nat.shiftRight_zero, land_mask1, land_mask3,
          land_mask7, land_mask15, land_mask31, land_mask63, land_mask127, land_mask255,
          lor_mul_pow, lor_add_mul_pow]
      omega)]
    simp (disch := omega) only [u8, Nat.lor_assoc, Nat.shiftLeft_eq,
          Nat.shiftRight_eq_div_pow, Nat.shiftRight_zero, land_mask1, land_mask3,
          land_mask7, land_mask15, land_mask31, land_mask63, land_mask127, land_mask255,
          lor_mul_pow, lor_add_mul_pow]
    omega
  · rw [lor_eq_add (u8 (v2 <<< 6)) (u8 (v3 >>> 0) &&& 63) 6 (by
      simp (disch := omega) only [u8, Nat.lor_assoc, Nat.shiftLeft_eq,
          Nat.shiftRight_eq_div_pow, Nat.shiftRight_zero, land_mask1, land_mask3,
          land_mask7, land_mask15, land_mask31, land_mask63, land_mask127, land_mask255,
          lor_mul_pow, lor_add_mul_pow]
      omega) (by
      simp (disch := omega) only [u8, Nat.lor_assoc, Nat.shiftLeft_eq,
          Nat.shiftRight_eq_div_pow, Nat.shiftRight_zero, land_mask1, land_mask3,
          land_mask7, land_mask15, land_mask31, land_mask63, land_mask127, land_mask255,
          lor_mul_pow, lor_add_mul_pow]
      omega)]
    simp (disch := omega) only [u8, Nat.lor_assoc, Nat.shiftLeft_eq,
          Nat.shiftRight_eq_div_pow, Nat.shiftRight_zero, land_mask1, land_mask3,
          land_mask7, land_mask15, land_mask31, land_mask63, land_mask127, land_mask255,
          lor_mul_pow, lor_add_mul_pow]
    omega
  · rw [lor_eq_add (u8 (v4 <<< 2)) (u8 (v5 >>> 4) &&& 3) 2 (by
      simp (disch := omega) only [u8, Nat.lor_assoc, Nat.shiftLeft_eq,
          Nat.shiftRight_eq_div_pow, Nat.shiftRight_zero, land_mask1, land_mask3,
          land_mask7, land_mask15, land_mask31, land_mask63, land_mask127, land_mask255,
          lor_mul_pow, lor_add_mul_pow]
      omega) (by
      simp (disch := omega) only [u8, Nat.lor_assoc, Nat.shiftLeft_eq,
          Nat.shiftRight_eq_div_pow, Nat.shiftRight_zero, land_mask1, land_mask3,
          land_mask7, land_mask15, land_mask31, land_mask63, land_mask127, land_mask255,
          lor_mul_pow, lor_add_mul_pow]
      omega)]
    simp (disch := omega) only [u8, Nat.lor_assoc, Nat.shiftLeft_eq,
          Nat.shiftRight_eq_div_pow, Nat.shiftRight_zero, land_mask1, land_mask3,
          land_mask7, land_mask15, land_mask31, land_mask63, land_mask127, land_mask255,
          lor_mul_pow, lor_add_mul_pow]
    omega
  · rw [lor_eq_add (u8 (v5 <<< 4)) (u8 (v6 >>> 2) &&& 15) 4 (by
      simp (disch := omega) only [u8, Nat.lor_assoc, Nat.shiftLeft_eq,
          Nat.shiftRight_eq_div_pow, Nat.shiftRight_zero, land_mask1, land_mask3,
          land_mask7, land_mask15, land_mask31, land_mask63, land_mask127, land_mask255,
          lor_mul_pow, lor_add_mul_pow]
      omega) (by
      simp (disch := omega) only [u8, Nat.lor_assoc, Nat.shiftLeft_eq,
          Nat.shiftRight_eq_div_pow, Nat.shiftRight_zero, land_mask1, land_mask3,
          land_mask7, land_mask15, land_mask31, land_mask63, land_mask127, land_mask255,
          lor_mul_pow, lor_add_mul_pow]
      omega)]
    simp (disch := omega) only [u8, Nat.lor_assoc, Nat.shiftLeft_eq,
          Nat.shiftRight_eq_div_pow, Nat.shiftRight_zero, land_mask1, land_mask3,
          land_mask7, land_mask15, land_mask31, land_mask63, land_mask127, land_mask255,
          lor_mul_pow, lor_add_mul_pow]
    omega
  · rw [lor_eq_add (u8 (v6 <<< 6)) (u8 (v7 >>> 0) &&& 63) 6 (by
      simp (disch := omega) only [u8, Nat.lor_assoc, Nat.shiftLeft_eq,
          Nat.shiftRight_eq_div_pow, Nat.shiftRight_zero, land_mask1, land_mask3,
          land_mask7, land_mask15, land_mask31, land_mask63, land_mask127, land_mask255,
          lor_mul_pow, lor_add_mul_pow]
      omega) (by
      simp (disch := omega) only [u8, Nat.lor_assoc, Nat.shiftLeft_eq,
          Nat.shiftRight_eq_div_pow, Nat.shiftRight_zero, land_mask1, land_mask3,
          land_mask7, land_mask15, land_mask31, land_mask63, land_mask127, land_mask255,
          lor_mul_pow, lor_add_mul_pow]
      omega)]
    simp (disch := omega) only [u8, Nat.lor_assoc, Nat.shiftLeft_eq,
          Nat.shiftRight_eq_div_pow, Nat.shiftRight_zero, land_mask1, land_mask3,
          land_mask7, land_mask15, land_mask31, land_mask63, land_mask127, land_mask255,
          lor_mul_pow, lor_add_mul_pow]
    omega

set_option maxHeartbeats 1600000 in
theorem c5_pack_eq_7 (v0 v1 v2 v3 v4 v5 v6 v7 : Nat) (hv0 : v0 < 2 ^ 7) (hv1 : v1 < 2 ^ 7) (hv2 : v2 < 2 ^ 7) (hv3 : v3 < 2 ^ 7) (hv4 : v4 < 2 ^ 7) (hv5 : v5 < 2 ^ 7) (hv6 : v6 < 2 ^ 7) (hv7 : v7 < 2 ^ 7) :
    (packSeq (BitPacker.new (List.replicate 7 0)) [(v0, 7), (v1, 7), (v2, 7), (v3, 7), (v4, 7), (v5, 7), (v6, 7), (v7, 7)]).bytes
      = pack_bits_7 v0 v1 v2 v3 v4 v5 v6 v7 := by
  have e0 : (BitPacker.new (List.replicate 7 0)).pack_value v0 7
      = (⟨[u8 (v0 <<< 1), 0, 0, 0, 0, 0, 0], 0, 7⟩ : BitPacker) := by with_unfolding_all rfl
  have e1 : (⟨[u8 (v0 <<< 1), 0, 0, 0, 0, 0, 0], 0, 7⟩ : BitPacker).pack_value v1 7
      = (⟨[u8 (v0 <<< 1) ||| (u8 (v1 >>> 6) &&& 1), u8 (v1 <<< 2), 0, 0, 0, 0, 0], 1, 6⟩ : BitPacker) := by with_unfolding_all rfl
  have e2 : (⟨[u8 (v0 <<< 1) ||| (u8 (v1 >>> 6) &&& 1), u8 (v1 <<< 2), 0, 0, 0, 0, 0], 1, 6⟩ : BitPacker).pack_value v2 7
      = (⟨[u8 (v0 <<< 1) ||| (u8 (v1 >>> 6) &&& 1), u8 (v1 <<< 2) ||| (u8 (v2 >>> 5) &&& 3), u8 (v2 <<< 3), 0, 0, 0, 0], 2, 5⟩ : BitPacker) := by with_unfolding_all rfl
  have e3 : (⟨[u8 (v0 <<< 1) ||| (u8 (v1 >>> 6) &&& 1), u8 (v1 <<< 2) ||| (u8 (v2 >>> 5) &&& 3), u8 (v2 <<< 3), 0, 0, 0, 0], 2, 5⟩ : BitPacker).pack_value v3 7
      = (⟨[u8 (v0 <<< 1) ||| (u8 (v1 >>> 6) &&& 1), u8 (v1 <<< 2) ||| (u8 (v2 >>> 5) &&& 3), u8 (v2 <<< 3) ||| (u8 (v3 >>> 4) &&& 7), u8 (v3 <<< 4), 0, 0, 0], 3, 4⟩ : BitPacker) := by with_unfolding_all rfl
  have e4 : (⟨[u8 (v0 <<< 1) ||| (u8 (v1 >>> 6) &&& 1), u8 (v1 <<< 2) ||| (u8 (v2 >>> 5) &&& 3), u8 (v2 <<< 3) ||| (u8 (v3 >>> 4) &&& 7), u8 (v3 <<< 4), 0, 0, 0], 3, 4⟩ : BitPacker).pack_value v4 7
      = (⟨[u8 (v0 <<< 1) ||| (u8 (v1 >>> 6) &&& 1), u8 (v1 <<< 2) ||| (u8 (v2 >>> 5) &&& 3), u8 (v2 <<< 3) ||| (u8 (v3 >>> 4) &&& 7), u8 (v3 <<< 4) ||| (u8 (v4 >>> 3) &&& 15), u8 (v4 <<< 5), 0, 0], 4, 3⟩ : BitPacker) := by with_unfolding_all rfl
  have e5 : (⟨[u8 (v0 <<< 1) ||| (u8 (v1 >>> 6) &&& 1), u8 (v1 <<< 2) ||| (u8 (v2 >>> 5) &&& 3), u8 (v2 <<< 3) ||| (u8 (v3 >>> 4) &&& 7), u8 (v3 <<< 4) ||| (u8 (v4 >>> 3) &&& 15), u8 (v4 <<< 5), 0, 0], 4, 3⟩ : BitPacker).pack_value v5 7
      = (⟨[u8 (v0 <<< 1) ||| (u8 (v1 >>> 6) &&& 1), u8 (v1 <<< 2) ||| (u8 (v2 >>> 5) &&& 3), u8 (v2 <<< 3) ||| (u8 (v3 >>> 4) &&& 7), u8 (v3 <<< 4) ||| (u8 (v4 >>> 3) &&& 15), u8 (v4 <<< 5) ||| (u8 (v5 >>> 2) &&& 31), u8 (v5 <<< 6), 0], 5, 2⟩ : BitPacker) := by with_unfolding_all rfl
  have e6 : (⟨[u8 (v0 <<< 1) ||| (u8 (v1 >>> 6) &&& 1), u8 (v1 <<< 2) ||| (u8 (v2 >>> 5) &&& 3), u8 (v2 <<< 3) ||| (u8 (v3 >>> 4) &&& 7), u8 (v3 <<< 4) ||| (u8 (v4 >>> 3) &&& 15), u8 (v4 <<< 5) ||| (u8 (v5 >>> 2) &&& 31), u8 (v5 <<< 6), 0], 5, 2⟩ : BitPacker).pack_value v6 7
      = (⟨[u8 (v0 <<< 1) ||| (u8 (v1 >>> 6) &&& 1), u8 (v1 <<< 2) ||| (u8 (v2 >>> 5) &&& 3), u8 (v2 <<< 3) ||| (u8 (v3 >>> 4) &&& 7), u8 (v3 <<< 4) ||| (u8 (v4 >>> 3) &&& 15), u8 (v4 <<< 5) ||| (u8 (v5 >>> 2) &&& 31), u8 (v5 <<< 6) ||| (u8 (v6 >>> 1) &&& 63), u8 (v6 <<< 7)], 6, 1⟩ : BitPacker) := by with_unfolding_all rfl
  have e7 : (⟨[u8 (v0 <<< 1) ||| (u8 (v1 >>> 6) &&& 1), u8 (v1 <<< 2) ||| (u8 (v2 >>> 5) &&& 3), u8 (v2 <<< 3) ||| (u8 (v3 >>> 4) &&& 7), u8 (v3 <<< 4) ||| (u8 (v4 >>> 3) &&& 15), u8 (v4 <<< 5) ||| (u8 (v5 >>> 2) &&& 31), u8 (v5 <<< 6) ||| (u8 (v6 >>> 1) &&& 63), u8 (v6 <<< 7)], 6, 1⟩ : BitPacker).pack_value v7 7
      = (⟨[u8 (v0 <<< 1) ||| (u8 (v1 >>> 6) &&& 1), u8 (v1 <<< 2) ||| (u8 (v2 >>> 5) &&& 3), u8 (v2 <<< 3) ||| (u8 (v3 >>> 4) &&& 7), u8 (v3 <<< 4) ||| (u8 (v4 >>> 3) &&& 15), u8 (v4 <<< 5) ||| (u8 (v5 >>> 2) &&& 31), u8 (v5 <<< 6) ||| (u8 (v6 >>> 1) &&& 63), u8 (v6 <<< 7) ||| (u8 (v7 >>> 0) &&& 127)], 7, 0⟩ : BitPacker) := by with_unfolding_all rfl
  have key : (packSeq (BitPacker.new (List.replicate 7 0)) [(v0, 7), (v1, 7), (v2, 7), (v3, 7), (v4, 7), (v5, 7), (v6, 7), (v7, 7)]).bytes
      = [ u8 (v0 <<< 1) ||| (u8 (v1 >>> 6) &&& 1),
          u8 (v1 <<< 2) ||| (u8 (v2 >>> 5) &&& 3),
          u8 (v2 <<< 3) ||| (u8 (v3 >>> 4) &&& 7),
          u8 (v3 <<< 4) ||| (u8 (v4 >>> 3) &&& 15),
          u8 (v4 <<< 5) ||| (u8 (v5 >>> 2) &&& 31),
          u8 (v5 <<< 6) ||| (u8 (v6 >>> 1) &&& 63),
          u8 (v6 <<< 7) ||| (u8 (v7 >>> 0) &&& 127) ] := by
    simp only [packSeq, List.foldl]
    rw [e0, e1, e2, e3, e4, e5, e6, e7]
  have key2 : pack_bits_7 v0 v1 v2 v3 v4 v5 v6 v7
      = [ u8 (((((v0) &&& 0x7f) <<< 1) ||| ((v1 >>> 6) &&& 0x1))),
          u8 (((((v1) &&& 0x3f) <<< 2) ||| ((v2 >>> 5) &&& 0x3))),
          u8 (((((v2) &&& 0x1f) <<< 3) ||| ((v3 >>> 4) &&& 0x7))),
          u8 (((((v3) &&& 0xf) <<< 4) ||| ((v4 >>> 3) &&& 0xf))),
          u8 (((((v4) &&& 0x7) <<< 5) ||| ((v5 >>> 2) &&& 0x1f))),
          u8 (((((v5) &&& 0x3) <<< 6) ||| ((v6 >>> 1) &&& 0x3f))),
          u8 (((((v6) &&& 0x1) <<< 7) ||| ((v7) &&& 0x7f))) ] := rfl
  rw [key, key2]
  simp only [List.cons.injEq]
  refine ⟨?_, ?_, ?_, ?_, ?_, ?_, ?_, trivial⟩
  · rw [lor_eq_add (u8 (v0 <<< 1)) (u8 (v1 >>> 6) &&& 1) 1 (by
      simp (disch := omega) only [u8, Nat.lor_assoc, Nat.shiftLeft_eq,
          Nat.shiftRight_eq_div_pow, Nat.shiftRight_zero, land_mask1, land_mask3,
          land_mask7, land_mask15, land_mask31, land_mask63, land_mask127, land_mask255,
          lor_mul_pow, lor_add_mul_pow]
      omega) (by
      simp (disch := omega) only [u8, Nat.lor_assoc, Nat.shiftLeft_eq,
          Nat.shiftRight_eq_div_pow, Nat.shiftRight_zero, land_mask1, land_mask3,
          land_mask7, land_mask15, land_mask31, land_mask63, land_mask127, land_mask255,
          lor_mul_pow, lor_add_mul_pow]
      omega)]
    simp (disch := omega) only [u8, Nat.lor_assoc, Nat.shiftLeft_eq,
          Nat.shiftRight_eq_div_pow, Nat.shiftRight_zero, land_mask1, land_mask3,
          land_mask7, land_mask15, land_mask31, land_mask63, land_mask127, land_mask255,
          lor_mul_pow, lor_add_mul_pow]
    omega
  · rw [lor_eq_add (u8 (v1 <<< 2)) (u8 (v2 >>> 5) &&& 3) 2 (by
      simp (disch := omega) only [u8, Nat.lor_assoc, Nat.shiftLeft_eq,
          Nat.shiftRight_eq_div_pow, Nat.shiftRight_zero, land_mask1, land_mask3,
          land_mask7, land_mask15, land_mask31, land_mask63, land_mask127, land_mask255,
          lor_mul_pow, lor_add_mul_pow]
      omega) (by
      simp (disch := omega) only [u8, Nat.lor_assoc, Nat.shiftLeft_eq,
          Nat.shiftRight_eq_div_pow, Nat.shiftRight_zero, land_mask1, land_mask3,
          land_mask7, land_mask15, land_mask31, land_mask63, land_mask127, land_mask255,
          lor_mul_pow, lor_add_mul_pow]
      omega)]
    simp (disch := omega) only [u8, Nat.lor_assoc, Nat.shiftLeft_eq,
          Nat.shiftRight_eq_div_pow, Nat.shiftRight_zero, land_mask1, land_mask3,
          land_mask7, land_mask15, land_mask31, land_mask63, land_mask127, land_mask255,
          lor_mul_pow, lor_add_mul_pow]
    omega
  · rw [lor_eq_add (u8 (v2 <<< 3)) (u8 (v3 >>> 4) &&& 7) 3 (by
      simp (disch := omega) only [u8, Nat.lor_assoc, Nat.shiftLeft_eq,
          Nat.shiftRight_eq_div_pow, Nat.shiftRight_zero, land_mask1, land_mask3,
          land_mask7, land_mask15, land_mask31, land_mask63, land_mask127, land_mask255,
          lor_mul_pow, lor_add_mul_pow]
      omega) (by
      simp (disch := omega) only [u8, Nat.lor_assoc, Nat.shiftLeft_eq,
          Nat.shiftRight_eq_div_pow, Nat.shiftRight_zero, land_mask1, land_mask3,
          land_mask7, land_mask15, land_mask31, land_mask63, land_mask127, land_mask255,
          lor_mul_pow, lor_add_mul_pow]
      omega)]
    simp (disch := omega) only [u8, Nat.lor_assoc, Nat.shiftLeft_eq,
          Nat.shiftRight_eq_div_pow, Nat.shiftRight_zero, land_mask1, land_mask3,
          land_mask7, land_mask15, land_mask31, land_mask63, land_mask127, land_mask255,
          lor_mul_pow, lor_add_mul_pow]
    omega
  · rw [lor_eq_add (u8 (v3 <<< 4)) (u8 (v4 >>> 3) &&& 15) 4 (by
      simp (disch := omega) only [u8, Nat.lor_assoc, Nat.shiftLeft_eq,
          Nat.shiftRight_eq_div_pow, Nat.shiftRight_zero, land_mask1, land_mask3,
          land_mask7, land_mask15, land_mask31, land_mask63, land_mask127, land_mask255,
          lor_mul_pow, lor_add_mul_pow]
      omega) (by
      simp (disch := omega) only [u8, Nat.lor_assoc, Nat.shiftLeft_eq,
          Nat.shiftRight_eq_div_pow, Nat.shiftRight_zero, land_mask1, land_mask3,
          land_mask7, land_mask15, land_mask31, land_mask63, land_mask127, land_mask255,
          lor_mul_pow, lor_add_mul_pow]
      omega)]
    simp (disch := omega) only [u8, Nat.lor_assoc, Nat.shiftLeft_eq,
          Nat.shiftRight_eq_div_pow, Nat.shiftRight_zero, land_mask1, land_mask3,
          land_mask7, land_mask15, land_mask31, land_mask63, land_mask127, land_mask255,
          lor_mul_pow, lor_add_mul_pow]
    omega
  · rw [lor_eq_add (u8 (v4 <<< 5)) (u8 (v5 >>> 2) &&& 31) 5 (by
      simp (disch := omega) only [u8, Nat.lor_assoc, Nat.shiftLeft_eq,
          Nat.shiftRight_eq_div_pow, Nat.shiftRight_zero, land_mask1, land_mask3,
          land_mask7, land_mask15, land_mask31, land_mask63, land_mask127, land_mask255,
          lor_mul_pow, lor_add_mul_pow]
      omega) (by
      simp (disch := omega) only [u8, Nat.lor_assoc, Nat.shiftLeft_eq,
          Nat.shiftRight_eq_div_pow, Nat.shiftRight_zero, land_mask1, land_mask3,
          land_mask7, land_mask15, land_mask31, land_mask63, land_mask127, land_mask255,
          lor_mul_pow, lor_add_mul_pow]
      omega)]
    simp (disch := omega) only [u8, Nat.lor_assoc, Nat.shiftLeft_eq,
          Nat.shiftRight_eq_div_pow, Nat.shiftRight_zero, land_mask1, land_mask3,
          land_mask7, land_mask15, land_mask31, land_mask63, land_mask127, land_mask255,
          lor_mul_pow, lor_add_mul_pow]
    omega
  · rw [lor_eq_add (u8 (v5 <<< 6)) (u8 (v6 >>> 1) &&& 63) 6 (by
      simp (disch := omega) only [u8, Nat.lor_assoc, Nat.shiftLeft_eq,
          Nat.shiftRight_eq_div_pow, Nat.shiftRight_zero, land_mask1, land_mask3,
          land_mask7, land_mask15, land_mask31, land_mask63, land_mask127, land_mask255,
          lor_mul_pow, lor_add_mul_pow]
      omega) (by
      simp (disch := omega) only [u8, Nat.lor_assoc, Nat.shiftLeft_eq,
          Nat.shiftRight_eq_div_pow, Nat.shiftRight_zero, land_mask1, land_mask3,
          land_mask7, land_mask15, land_mask31, land_mask63, land_mask127, land_mask255,
          lor_mul_pow, lor_add_mul_pow]
      omega)]
    simp (disch := omega) only [u8, Nat.lor_assoc, Nat.shiftLeft_eq,
          Nat.shiftRight_eq_div_pow, Nat.shiftRight_zero, land_mask1, land_mask3,
          land_mask7, land_mask15, land_mask31, land_mask63, land_mask127, land_mask255,
          lor_mul_pow, lor_add_mul_pow]
    omega
  · rw [lor_eq_add (u8 (v6 <<< 7)) (u8 (v7 >>> 0) &&& 127) 7 (by
      simp (disch := omega) only [u8, Nat.lor_assoc, Nat.shiftLeft_eq,
          Nat.shiftRight_eq_div_pow, Nat.shiftRight_zero, land_mask1, land_mask3,
          land_mask7, land_mask15, land_mask31, land_mask63, land_mask127, land_mask255,
          lor_mul_pow, lor_add_mul_pow]
      omega) (by
      simp (disch := omega) only [u8, Nat.lor_assoc, Nat.shiftLeft_eq,
          Nat.shiftRight_eq_div_pow, Nat.shiftRight_zero, land_mask1, land_mask3,
          land_mask7, land_mask15, land_mask31, land_mask63, land_mask127, land_mask255,
          lor_mul_pow, lor_add_mul_pow]
      omega)]
    simp (disch := omega) only [u8, Nat.lor_assoc, Nat.shiftLeft_eq,
          Nat.shiftRight_eq_div_pow, Nat.shiftRight_zero, land_mask1, land_mask3,
          land_mask7, land_mask15, land_mask31, land_mask63, land_mask127, land_mask255,
          lor_mul_pow, lor_add_mul_pow]
    omega

set_option maxHeartbeats 1600000 in
theorem c5_pack_eq_8 (v0 v1 v2 v3 v4 v5 v6 v7 : Nat) (hv0 : v0 < 2 ^ 8) (hv1 : v1 < 2 ^ 8) (hv2 : v2 < 2 ^ 8) (hv3 : v3 < 2 ^ 8) (hv4 : v4 < 2 ^ 8) (hv5 : v5 < 2 ^ 8) (hv6 : v6 < 2 ^ 8) (hv7 : v7 < 2 ^ 8) :
    (packSeq (BitPacker.new (List.replicate 8 0)) [(v0, 8), (v1, 8), (v2, 8), (v3, 8), (v4, 8), (v5, 8), (v6, 8), (v7, 8)]).bytes
      = pack_bits_8 v0 v1 v2 v3 v4 v5 v6 v7 := by
  have e0 : (BitPacker.new (List.replicate 8 0)).pack_value v0 8
      = (⟨[u8 (v0 >>> 0), 0, 0, 0, 0, 0, 0, 0], 1, 0⟩ : BitPacker) := by with_unfolding_all rfl
  have e1 : (⟨[u8 (v0 >>> 0), 0, 0, 0, 0, 0, 0, 0], 1, 0⟩ : BitPacker).pack_value v1 8
      = (⟨[u8 (v0 >>> 0), u8 (v1 >>> 0), 0, 0, 0, 0, 0, 0], 2, 0⟩ : BitPacker) := by with_unfolding_all rfl
  have e2 : (⟨[u8 (v0 >>> 0), u8 (v1 >>> 0), 0, 0, 0, 0, 0, 0], 2, 0⟩ : BitPacker).pack_value v2 8
      = (⟨[u8 (v0 >>> 0), u8 (v1 >>> 0), u8 (v2 >>> 0), 0, 0, 0, 0, 0], 3, 0⟩ : BitPacker) := by with_unfolding_all rfl
  have e3 : (⟨[u8 (v0 >>> 0), u8 (v1 >>> 0), u8 (v2 >>> 0), 0, 0, 0, 0, 0], 3, 0⟩ : BitPacker).pack_value v3 8
      = (⟨[u8 (v0 >>> 0), u8 (v1 >>> 0), u8 (v2 >>> 0), u8 (v3 >>> 0), 0, 0, 0, 0], 4, 0⟩ : BitPacker) := by with_unfolding_all rfl
  have e4 : (⟨[u8 (v0 >>> 0), u8 (v1 >>> 0), u8 (v2 >>> 0), u8 (v3 >>> 0), 0, 0, 0, 0], 4, 0⟩ : BitPacker).pack_value v4 8
      = (⟨[u8 (v0 >>> 0), u8 (v1 >>> 0), u8 (v2 >>> 0), u8 (v3 >>> 0), u8 (v4 >>> 0), 0, 0, 0], 5, 0⟩ : BitPacker) := by with_unfolding_all rfl
  have e5 : (⟨[u8 (v0 >>> 0), u8 (v1 >>> 0), u8 (v2 >>> 0), u8 (v3 >>> 0), u8 (v4 >>> 0), 0, 0, 0], 5, 0⟩ : BitPacker).pack_value v5 8
      = (⟨[u8 (v0 >>> 0), u8 (v1 >>> 0), u8 (v2 >>> 0), u8 (v3 >>> 0), u8 (v4 >>> 0), u8 (v5 >>> 0), 0, 0], 6, 0⟩ : BitPacker) := by with_unfolding_all rfl
  have e6 : (⟨[u8 (v0 >>> 0), u8 (v1 >>> 0), u8 (v2 >>> 0), u8 (v3 >>> 0), u8 (v4 >>> 0), u8 (v5 >>> 0), 0, 0], 6, 0⟩ : BitPacker).pack_value v6 8
      = (⟨[u8 (v0 >>> 0), u8 (v1 >>> 0), u8 (v2 >>> 0), u8 (v3 >>> 0), u8 (v4 >>> 0), u8 (v5 >>> 0), u8 (v6 >>> 0), 0], 7, 0⟩ : BitPacker) := by with_unfolding_all rfl
  have e7 : (⟨[u8 (v0 >>> 0), u8 (v1 >>> 0), u8 (v2 >>> 0), u8 (v3 >>> 0), u8 (v4 >>> 0), u8 (v5 >>> 0), u8 (v6 >>> 0), 0], 7, 0⟩ : BitPacker).pack_value v7 8
      = (⟨[u8 (v0 >>> 0), u8 (v1 >>> 0), u8 (v2 >>> 0), u8 (v3 >>> 0), u8 (v4 >>> 0), u8 (v5 >>> 0), u8 (v6 >>> 0), u8 (v7 >>> 0)], 8, 0⟩ : BitPacker) := by with_unfolding_all rfl
  have key : (packSeq (BitPacker.new (List.replicate 8 0)) [(v0, 8), (v1, 8), (v2, 8), (v3, 8), (v4, 8), (v5, 8), (v6, 8), (v7, 8)]).bytes
      = [ u8 (v0 >>> 0),
          u8 (v1 >>> 0),
          u8 (v2 >>> 0),
          u8 (v3 >>> 0),
          u8 (v4 >>> 0),
          u8 (v5 >>> 0),
          u8 (v6 >>> 0),
          u8 (v7 >>> 0) ] := by
    simp only [packSeq, List.foldl]
    rw [e0, e1, e2, e3, e4, e5, e6, e7]
  have key2 : pack_bits_8 v0 v1 v2 v3 v4 v5 v6 v7
      = [ u8 (((v0) &&& 0xff)),
          u8 (((v1) &&& 0xff)),
          u8 (((v2) &&& 0xff)),
          u8 (((v3) &&& 0xff)),
          u8 (((v4) &&& 0xff)),
          u8 (((v5) &&& 0xff)),
          u8 (((v6) &&& 0xff)),
          u8 (((v7) &&& 0xff)) ] := rfl
  rw [key, key2]
  simp only [List.cons.injEq]
  refine ⟨?_, ?_, ?_, ?_, ?_, ?_, ?_, ?_, trivial⟩
  · rw [u8_and255, u8_shiftRight_zero]
  · rw [u8_and255, u8_shiftRight_zero]
  · rw [u8_and255, u8_shiftRight_zero]
  · rw [u8_and255, u8_shiftRight_zero]
  · rw [u8_and255, u8_shiftRight_zero]
  · rw [u8_and255, u8_shiftRight_zero]
  · rw [u8_and255, u8_shiftRight_zero]
  · rw [u8_and255, u8_shiftRight_zero]

set_option debug.skipKernelTC false

theorem list_eq_map_range_of_getD (l : List Nat) (f : Nat → Nat) (L : Nat)
    (hlen : l.length = L) (h : ∀ j, j < L → l.getD j 0 = f j) :
    l = (List.range L).map f := by
  apply List.ext_getElem
  · simp [hlen]
  · intro i h1 h2
    have hiL : i < L := by omega
    rw [List.getElem_map, List.getElem_range]
    rw [← List.getD_eq_getElem l 0 h1]
    exact h i hiL

theorem packInv_init (L : Nat) : PackInv L 0 0 (BitPacker.new (List.replicate L 0)) := by
  refine ⟨rfl, rfl, by omega, ⟨by simp [BitPacker.new], ?_⟩, ?_, by positivity⟩
  · intro j hj
    show (List.replicate L 0).getD j 0 = ByteSpec L 0 j
    rw [getD_replicate0]
    unfold ByteSpec
    simp
  · simp

theorem streamT_append (L : Nat) : ∀ (ps qs : List (Nat × Nat)) (P T : Nat),
    streamT L (ps ++ qs) P T
      = streamT L qs (P + (ps.map Prod.snd).sum) (streamT L ps P T) := by
  intro ps
  induction ps with
  | nil =>
    intro qs P T
    simp [streamT]
  | cons p ps ih =>
    intro qs P T
    rw [List.cons_append]
    rw [show streamT L (p :: (ps ++ qs)) P T
        = streamT L (ps ++ qs) (P + p.2) (T + p.1 * 2 ^ (8 * L - P - p.2)) from rfl]
    rw [ih]
    rw [show streamT L (p :: ps) P T
        = streamT L ps (P + p.2) (T + p.1 * 2 ^ (8 * L - P - p.2)) from rfl]
    simp only [List.map_cons, List.sum_cons]
    congr 1
    omega

theorem streamT_mod (L : Nat) : ∀ (ps : List (Nat × Nat)) (Q T : Nat),
    T % 2 ^ (8 * L - Q - (ps.map Prod.snd).sum) = 0 →
    streamT L ps Q T % 2 ^ (8 * L - Q - (ps.map Prod.snd).sum) = 0 := by
  intro ps
  induction ps with
  | nil =>
    intro Q T h
    simpa [streamT] using h
  | cons p ps ih =>
    intro Q T h
    simp only [List.map_cons, List.sum_cons] at h ⊢
    rw [streamT]
    rw [show 8 * L - Q - (p.2 + (ps.map Prod.snd).sum)
      = 8 * L - (Q + p.2) - (ps.map Prod.snd).sum from by omega]
    apply ih
    apply Nat.mod_eq_zero_of_dvd
    apply Nat.dvd_add
    · apply Nat.dvd_of_mod_eq_zero
      rw [show 8 * L - Q - (p.2 + (ps.map Prod.snd).sum)
        = 8 * L - (Q + p.2) - (ps.map Prod.snd).sum from by omega] at h
      exact h
    · exact Dvd.dvd.mul_left
        (pow_dvd_sub (8 * L - Q - p.2) (8 * L - (Q + p.2) - (ps.map Prod.snd).sum)
          (by omega)) p.1

theorem streamT_decomp (L : Nat) (ps xs ys : List (Nat × Nat)) (v b' P : Nat)
    (hps : ps = xs ++ (v, b') :: ys)
    (hP : (xs.map Prod.snd).sum = P)
    (hv : ∀ p ∈ ps, p.1 < 2 ^ p.2)
    (hfit : P + b' + (ys.map Prod.snd).sum ≤ 8 * L) :
    ∃ A S, streamT L ps 0 0 = A + v * 2 ^ (8 * L - P - b') + S
      ∧ A % 2 ^ (8 * L - P) = 0 ∧ S < 2 ^ (8 * L - P - b') := by
  have hvy : ∀ p ∈ ys, p.1 < 2 ^ p.2 := fun q hq =>
    hv q (by rw [hps]; exact List.mem_append_right _ (List.mem_cons_of_mem _ hq))
  subst hps
  rw [streamT_append, Nat.zero_add, hP]
  rw [show streamT L ((v, b') :: ys) P (streamT L xs 0 0)
      = streamT L ys (P + b') (streamT L xs 0 0 + v * 2 ^ (8 * L - P - b'))
    from rfl]
  obtain ⟨S, hS, hSlt⟩ := streamT_grow L ys (P + b')
    (streamT L xs 0 0 + v * 2 ^ (8 * L - P - b')) hvy (by omega)
  refine ⟨streamT L xs 0 0, S, hS, ?_, ?_⟩
  · have hm := streamT_mod L xs 0 0 (by simp)
    rw [hP] at hm
    simpa using hm
  · rw [show 8 * L - (P + b') = 8 * L - P - b' from by omega] at hSlt
    exact hSlt

theorem streamT_decomp2 (L : Nat) (ps xs ys : List (Nat × Nat)) (v w b' c' P : Nat)
    (hps : ps = xs ++ (v, b') :: (w, c') :: ys)
    (hP : (xs.map Prod.snd).sum = P)
    (hv : ∀ p ∈ ps, p.1 < 2 ^ p.2)
    (hfit : P + b' + c' + (ys.map Prod.snd).sum ≤ 8 * L) :
    ∃ A S, streamT L ps 0 0
        = A + v * 2 ^ (8 * L - P - b') + w * 2 ^ (8 * L - P - b' - c') + S
      ∧ A % 2 ^ (8 * L - P) = 0 ∧ S < 2 ^ (8 * L - P - b' - c') := by
  have hvy : ∀ p ∈ ys, p.1 < 2 ^ p.2 := fun q hq =>
    hv q (by
      rw [hps]
      exact List.mem_append_right _ (List.mem_cons_of_mem _ (List.mem_cons_of_mem _ hq)))
  subst hps
  rw [streamT_append, Nat.zero_add, hP]
  rw [show streamT L ((v, b') :: (w, c') :: ys) P (streamT L xs 0 0)
      = streamT L ys (P + b' + c')
          (streamT L xs 0 0 + v * 2 ^ (8 * L - P - b')
            + w * 2 ^ (8 * L - (P + b') - c'))
    from rfl]
  obtain ⟨S, hS, hSlt⟩ := streamT_grow L ys (P + b' + c')
    (streamT L xs 0 0 + v * 2 ^ (8 * L - P - b')
      + w * 2 ^ (8 * L - (P + b') - c')) hvy (by omega)
  refine ⟨streamT L xs 0 0, S, ?_, ?_, ?_⟩
  · rw [show 8 * L - P - b' - c' = 8 * L - (P + b') - c' from by omega]
    exact hS
  · have hm := streamT_mod L xs 0 0 (by simp)
    rw [hP] at hm
    simpa using hm
  · rw [show 8 * L - (P + b' + c') = 8 * L - P - b' - c' from by omega] at hSlt
    exact hSlt

theorem byteSpec_mid (L A v S e w j s : Nat)
    (hA : A % 2 ^ (e + w) = 0) (hS : S < 2 ^ e)
    (hes : e + s = 8 * (L - 1 - j)) (hsw : s + 8 ≤ w) :
    ByteSpec L (A + v * 2 ^ e + S) j = u8 ((v >>> s) &&& 255) := by
  obtain ⟨a, ha⟩ := Nat.dvd_of_mod_eq_zero hA
  have hrhs : u8 ((v >>> s) &&& 255) = v / 2 ^ s % 256 := by
    rw [u8, Nat.shiftRight_eq_div_pow, land_mask255,
      Nat.mod_mod_of_dvd _ (dvd_refl 256)]
  unfold ByteSpec
  rw [← hes, hrhs]
  have hpow1 : (2 : Nat) ^ (e + s) = 2 ^ e * 2 ^ s := pow_add 2 e s
  have hpow2 : (2 : Nat) ^ (e + w) = 2 ^ e * 2 ^ s * 2 ^ (w - s) := by
    rw [← pow_add, ← pow_add]
    congr 1
    omega
  have hsplit : A + v * 2 ^ e + S
      = 2 ^ e * 2 ^ s * (2 ^ (w - s) * a + v / 2 ^ s) + (v % 2 ^ s * 2 ^ e + S) := by
    conv_lhs => rw [ha, hpow2,
      show v = 2 ^ s * (v / 2 ^ s) + v % 2 ^ s from (Nat.div_add_mod v (2 ^ s)).symm]
    ring
  have hrem : v % 2 ^ s * 2 ^ e + S < 2 ^ e * 2 ^ s := by
    have h1 : v % 2 ^ s ≤ 2 ^ s - 1 :=
      Nat.le_sub_one_of_lt (Nat.mod_lt _ (by positivity))
    have h2 : v % 2 ^ s * 2 ^ e ≤ (2 ^ s - 1) * 2 ^ e := Nat.mul_le_mul_right _ h1
    have h4 : (2 ^ s - 1) * 2 ^ e = 2 ^ e * 2 ^ s - 2 ^ e := by
      rw [Nat.sub_mul, Nat.one_mul, Nat.mul_comm]
    have h5 : (0 : Nat) < 2 ^ s := by positivity
    have h6 : (2 : Nat) ^ e ≤ 2 ^ e * 2 ^ s := Nat.le_mul_of_pos_right _ h5
    omega
  rw [hsplit, hpow1, Nat.mul_add_div (by positivity), Nat.div_eq_of_lt hrem,
    Nat.add_zero]
  obtain ⟨k, hk⟩ : ∃ k, 2 ^ (w - s) * a = 256 * k :=
    ⟨2 ^ (w - s - 8) * a, by
      rw [show (256 : Nat) = 2 ^ 8 from by norm_num, ← Nat.mul_assoc, ← Nat.pow_add]
      congr 2
      omega⟩
  rw [hk, Nat.add_comm (256 * k), Nat.add_mul_mod_self_left]

theorem byteSpec_mid0 (L A v S e w j : Nat)
    (hA : A % 2 ^ (e + w) = 0) (hS : S < 2 ^ e)
    (hes : e = 8 * (L - 1 - j)) (hsw : 8 ≤ w) :
    ByteSpec L (A + v * 2 ^ e + S) j = u8 (v &&& 255) := by
  have h := byteSpec_mid L A v S e w j 0 hA hS (by omega) (by omega)
  rwa [Nat.shiftRight_zero] at h

theorem byteSpec_bnd (L A v w S f j t c s m1 m2 vb : Nat)
    (hA : A % 2 ^ (f + s + c + vb) = 0) (hv : v < 2 ^ vb) (hw : w < 2 ^ (s + c))
    (hS : S < 2 ^ f)
    (ht : t + c = 8) (hm1 : m1 = 2 ^ t - 1) (hm2 : m2 = 2 ^ c - 1)
    (hd : f + s = 8 * (L - 1 - j)) (hvb : t ≤ vb) :
    ByteSpec L (A + v * 2 ^ (f + s + c) + w * 2 ^ f + S) j
      = u8 (((v &&& m1) <<< c) ||| ((w >>> s) &&& m2)) := by
  obtain ⟨a, ha⟩ := Nat.dvd_of_mod_eq_zero hA
  have hq : w / 2 ^ s < 2 ^ c := by
    apply Nat.div_lt_of_lt_mul
    calc w < 2 ^ (s + c) := hw
      _ = 2 ^ s * 2 ^ c := pow_add 2 s c
  have hlt256 : v % 2 ^ t * 2 ^ c + w / 2 ^ s < 256 := by
    have h1 : v % 2 ^ t ≤ 2 ^ t - 1 :=
      Nat.le_sub_one_of_lt (Nat.mod_lt _ (by positivity))
    have h2 : v % 2 ^ t * 2 ^ c ≤ (2 ^ t - 1) * 2 ^ c := Nat.mul_le_mul_right _ h1
    have h3 : (2 ^ t - 1) * 2 ^ c = 2 ^ t * 2 ^ c - 2 ^ c := by
      rw [Nat.sub_mul, Nat.one_mul]
    have h4 : (2 : Nat) ^ t * 2 ^ c = 256 := by
      rw [← Nat.pow_add, ht]
    have h5 : (0 : Nat) < 2 ^ c := by positivity
    have h6 : (2 : Nat) ^ c ≤ 256 := by
      rw [← h4]
      exact Nat.le_mul_of_pos_left _ (by positivity)
    omega
  have hrhs : u8 (((v &&& m1) <<< c) ||| ((w >>> s) &&& m2))
      = v % 2 ^ t * 2 ^ c + w / 2 ^ s := by
    rw [hm1, hm2, and_mask_eq_mod, Nat.shiftRight_eq_div_pow, and_mask_eq_mod,
      Nat.mod_eq_of_lt hq, Nat.shiftLeft_eq]
    rw [lor_eq_add _ _ c (by rw [Nat.mul_mod_left]) hq]
    rw [u8]
    exact Nat.mod_eq_of_lt hlt256
  unfold ByteSpec
  rw [← hd, hrhs]
  have hpow2 : (2 : Nat) ^ (f + s + c + vb)
      = 2 ^ f * 2 ^ s * (2 ^ c * 2 ^ (vb - t) * 2 ^ t) := by
    rw [← pow_add, ← pow_add, ← pow_add, ← pow_add]
    congr 1
    omega
  have hpowv : (2 : Nat) ^ (f + s + c) = 2 ^ f * 2 ^ s * 2 ^ c := by
    rw [← pow_add, ← pow_add]
  have hsplit : A + v * 2 ^ (f + s + c) + w * 2 ^ f + S
      = 2 ^ f * 2 ^ s
          * (2 ^ c * 2 ^ (vb - t) * 2 ^ t * a
             + (v / 2 ^ t * 2 ^ t + v % 2 ^ t) * 2 ^ c + w / 2 ^ s)
        + (w % 2 ^ s * 2 ^ f + S) := by
    conv_lhs => rw [ha, hpow2, hpowv,
      show v = 2 ^ t * (v / 2 ^ t) + v % 2 ^ t from (Nat.div_add_mod v (2 ^ t)).symm,
      show w = 2 ^ s * (w / 2 ^ s) + w % 2 ^ s from (Nat.div_add_mod w (2 ^ s)).symm]
    ring
  have hrem : w % 2 ^ s * 2 ^ f + S < 2 ^ f * 2 ^ s := by
    have h1 : w % 2 ^ s ≤ 2 ^ s - 1 :=
      Nat.le_sub_one_of_lt (Nat.mod_lt _ (by positivity))
    have h2 : w % 2 ^ s * 2 ^ f ≤ (2 ^ s - 1) * 2 ^ f := Nat.mul_le_mul_right _ h1
    have h4 : (2 ^ s - 1) * 2 ^ f = 2 ^ f * 2 ^ s - 2 ^ f := by
      rw [Nat.sub_mul, Nat.one_mul, Nat.mul_comm]
    have h5 : (0 : Nat) < 2 ^ s := by positivity
    have h6 : (2 : Nat) ^ f ≤ 2 ^ f * 2 ^ s := Nat.le_mul_of_pos_right _ h5
    omega
  rw [hsplit, pow_add, Nat.mul_add_div (by positivity), Nat.div_eq_of_lt hrem,
    Nat.add_zero]
  have hX : 2 ^ c * 2 ^ (vb - t) * 2 ^ t * a
        + (v / 2 ^ t * 2 ^ t + v % 2 ^ t) * 2 ^ c + w / 2 ^ s
      = v % 2 ^ t * 2 ^ c + w / 2 ^ s + 256 * (2 ^ (vb - t) * a + v / 2 ^ t) := by
    rw [show (256 : Nat) = 2 ^ t * 2 ^ c from by rw [← Nat.pow_add, ht]]
    ring
  rw [hX, Nat.add_mul_mod_self_left]
  exact Nat.mod_eq_of_lt hlt256

set_option maxRecDepth 16000 in
set_option maxHeartbeats 1000000 in
theorem c5_pack_eq_9 (v0 v1 v2 v3 v4 v5 v6 v7 : Nat) (hv0 : v0 < 2 ^ 9) (hv1 : v1 < 2 ^ 9) (hv2 : v2 < 2 ^ 9) (hv3 : v3 < 2 ^ 9) (hv4 : v4 < 2 ^ 9) (hv5 : v5 < 2 ^ 9) (hv6 : v6 < 2 ^ 9) (hv7 : v7 < 2 ^ 9) :
    (packSeq (BitPacker.new (List.replicate 9 0)) [(v0, 9), (v1, 9), (v2, 9), (v3, 9), (v4, 9), (v5, 9), (v6, 9), (v7, 9)]).bytes
      = pack_bits_9 v0 v1 v2 v3 v4 v5 v6 v7 := by
  have hvs : ∀ p ∈ ([(v0, 9), (v1, 9), (v2, 9), (v3, 9), (v4, 9), (v5, 9), (v6, 9), (v7, 9)] : List (Nat × Nat)), p.1 < 2 ^ p.2 := by
    intro p hp
    simp only [List.mem_cons, List.not_mem_nil, or_false] at hp
    rcases hp with rfl | rfl | rfl | rfl | rfl | rfl | rfl | rfl
    exacts [hv0, hv1, hv2, hv3, hv4, hv5, hv6, hv7]
  obtain ⟨-, -, -, ⟨hlen, hbytes⟩, -, -⟩ :=
    packSeq_inv 9 [(v0, 9), (v1, 9), (v2, 9), (v3, 9), (v4, 9), (v5, 9), (v6, 9), (v7, 9)] 0 0 _ hvs
      (by norm_num [List.map_cons, List.map_nil, List.sum_cons, List.sum_nil]) (packInv_init 9)
  have key : (packSeq (BitPacker.new (List.replicate 9 0)) [(v0, 9), (v1, 9), (v2, 9), (v3, 9), (v4, 9), (v5, 9), (v6, 9), (v7, 9)]).bytes
      = [ ByteSpec 9 (streamT 9 [(v0, 9), (v1, 9), (v2, 9), (v3, 9), (v4, 9), (v5, 9), (v6, 9), (v7, 9)] 0 0) 0,
          ByteSpec 9 (streamT 9 [(v0, 9), (v1, 9), (v2, 9), (v3, 9), (v4, 9), (v5, 9), (v6, 9), (v7, 9)] 0 0) 1,
          ByteSpec 9 (streamT 9 [(v0, 9), (v1, 9), (v2, 9), (v3, 9), (v4, 9), (v5, 9), (v6, 9), (v7, 9)] 0 0) 2,
          ByteSpec 9 (streamT 9 [(v0, 9), (v1, 9), (v2, 9), (v3, 9), (v4, 9), (v5, 9), (v6, 9), (v7, 9)] 0 0) 3,
          ByteSpec 9 (streamT 9 [(v0, 9), (v1, 9), (v2, 9), (v3, 9), (v4, 9), (v5, 9), (v6, 9), (v7, 9)] 0 0) 4,
          ByteSpec 9 (streamT 9 [(v0, 9), (v1, 9), (v2, 9), (v3, 9), (v4, 9), (v5, 9), (v6, 9), (v7, 9)] 0 0) 5,
          ByteSpec 9 (streamT 9 [(v0, 9), (v1, 9), (v2, 9), (v3, 9), (v4, 9), (v5, 9), (v6, 9), (v7, 9)] 0 0) 6,
          ByteSpec 9 (streamT 9 [(v0, 9), (v1, 9), (v2, 9), (v3, 9), (v4, 9), (v5, 9), (v6, 9), (v7, 9)] 0 0) 7,
          ByteSpec 9 (streamT 9 [(v0, 9), (v1, 9), (v2, 9), (v3, 9), (v4, 9), (v5, 9), (v6, 9), (v7, 9)] 0 0) 8 ] :=
    (list_eq_map_range_of_getD _ _ 9 hlen hbytes).trans (by rfl)
  have key2 : pack_bits_9 v0 v1 v2 v3 v4 v5 v6 v7
      = [ u8 (((v0 >>> 1) &&& 0xff)),
          u8 (((((v0) &&& 0x1) <<< 7) ||| ((v1 >>> 2) &&& 0x7f))),
          u8 (((((v1) &&& 0x3) <<< 6) ||| ((v2 >>> 3) &&& 0x3f))),
          u8 (((((v2) &&& 0x7) <<< 5) ||| ((v3 >>> 4) &&& 0x1f))),
          u8 (((((v3) &&& 0xf) <<< 4) ||| ((v4 >>> 5) &&& 0xf))),
          u8 (((((v4) &&& 0x1f) <<< 3) ||| ((v5 >>> 6) &&& 0x7))),
          u8 (((((v5) &&& 0x3f) <<< 2) ||| ((v6 >>> 7) &&& 0x3))),
          u8 (((((v6) &&& 0x7f) <<< 1) ||| ((v7 >>> 8) &&& 0x1))),
          u8 (((v7) &&& 0xff)) ] := rfl
  obtain ⟨A0, S0, hT0, hA0, hS0⟩ :=
    streamT_decomp 9 [(v0, 9), (v1, 9), (v2, 9), (v3, 9), (v4, 9), (v5, 9), (v6, 9), (v7, 9)] [] [(v1, 9), (v2, 9), (v3, 9), (v4, 9), (v5, 9), (v6, 9), (v7, 9)] v0 9 0 rfl rfl hvs
      (by norm_num [List.map_cons, List.map_nil, List.sum_cons, List.sum_nil])
  obtain ⟨A7, S7, hT7, hA7, hS7⟩ :=
    streamT_decomp 9 [(v0, 9), (v1, 9), (v2, 9), (v3, 9), (v4, 9), (v5, 9), (v6, 9), (v7, 9)] [(v0, 9), (v1, 9), (v2, 9), (v3, 9), (v4, 9), (v5, 9), (v6, 9)] [] v7 9 63 rfl rfl hvs
      (by norm_num [List.map_cons, List.map_nil, List.sum_cons, List.sum_nil])
  obtain ⟨B0, R0, hU0, hB0, hR0⟩ :=
    streamT_decomp2 9 [(v0, 9), (v1, 9), (v2, 9), (v3, 9), (v4, 9), (v5, 9), (v6, 9), (v7, 9)] [] [(v2, 9), (v3, 9), (v4, 9), (v5, 9), (v6, 9), (v7, 9)] v0 v1 9 9 0 rfl rfl hvs
      (by norm_num [List.map_cons, List.map_nil, List.sum_cons, List.sum_nil])
  obtain ⟨B1, R1, hU1, hB1, hR1⟩ :=
    streamT_decomp2 9 [(v0, 9), (v1, 9), (v2, 9), (v3, 9), (v4, 9), (v5, 9), (v6, 9), (v7, 9)] [(v0, 9)] [(v3, 9), (v4, 9), (v5, 9), (v6, 9), (v7, 9)] v1 v2 9 9 9 rfl rfl hvs
      (by norm_num [List.map_cons, List.map_nil, List.sum_cons, List.sum_nil])
  obtain ⟨B2, R2, hU2, hB2, hR2⟩ :=
    streamT_decomp2 9 [(v0, 9), (v1, 9), (v2, 9), (v3, 9), (v4, 9), (v5, 9), (v6, 9), (v7, 9)] [(v0, 9), (v1, 9)] [(v4, 9), (v5, 9), (v6, 9), (v7, 9)] v2 v3 9 9 18 rfl rfl hvs
      (by norm_num [List.map_cons, List.map_nil, List.sum_cons, List.sum_nil])
  obtain ⟨B3, R3, hU3, hB3, hR3⟩ :=
    streamT_decomp2 9 [(v0, 9), (v1, 9), (v2, 9), (v3, 9), (v4, 9), (v5, 9), (v6, 9), (v7, 9)] [(v0, 9), (v1, 9), (v2, 9)] [(v5, 9), (v6, 9), (v7, 9)] v3 v4 9 9 27 rfl rfl hvs
      (by norm_num [List.map_cons, List.map_nil, List.sum_cons, List.sum_nil])
  obtain ⟨B4, R4, hU4, hB4, hR4⟩ :=
    streamT_decomp2 9 [(v0, 9), (v1, 9), (v2, 9), (v3, 9), (v4, 9), (v5, 9), (v6, 9), (v7, 9)] [(v0, 9), (v1, 9), (v2, 9), (v3, 9)] [(v6, 9), (v7, 9)] v4 v5 9 9 36 rfl rfl hvs
      (by norm_num [List.map_cons, List.map_nil, List.sum_cons, List.sum_nil])
  obtain ⟨B5, R5, hU5, hB5, hR5⟩ :=
    streamT_decomp2 9 [(v0, 9), (v1, 9), (v2, 9), (v3, 9), (v4, 9), (v5, 9), (v6, 9), (v7, 9)] [(v0, 9), (v1, 9), (v2, 9), (v3, 9), (v4, 9)] [(v7, 9)] v5 v6 9 9 45 rfl rfl hvs
      (by norm_num [List.map_cons, List.map_nil, List.sum_cons, List.sum_nil])
  obtain ⟨B6, R6, hU6, hB6, hR6⟩ :=
    streamT_decomp2 9 [(v0, 9), (v1, 9), (v2, 9), (v3, 9), (v4, 9), (v5, 9), (v6, 9), (v7, 9)] [(v0, 9), (v1, 9), (v2, 9), (v3, 9), (v4, 9), (v5, 9)] [] v6 v7 9 9 54 rfl rfl hvs
      (by norm_num [List.map_cons, List.map_nil, List.sum_cons, List.sum_nil])
  rw [key, key2]
  simp only [List.cons.injEq]
  refine ⟨?_, ?_, ?_, ?_, ?_, ?_, ?_, ?_, ?_, trivial⟩
  · rw [hT0]
    exact byteSpec_mid 9 A0 v0 S0 (8 * 9 - 0 - 9) 9 0 1 hA0 hS0
      (by norm_num) (by norm_num)
  · rw [hU0]
    exact byteSpec_bnd 9 B0 v0 v1 R0 (8 * 9 - 0 - 9 - 9) 1 1 7 2 1 127 9 hB0 hv0 hv1 hR0
      (by norm_num) (by norm_num) (by norm_num) (by norm_num) (by norm_num)
  · rw [hU1]
    exact byteSpec_bnd 9 B1 v1 v2 R1 (8 * 9 - 9 - 9 - 9) 2 2 6 3 3 63 9 hB1 hv1 hv2 hR1
      (by norm_num) (by norm_num) (by norm_num) (by norm_num) (by norm_num)
  · rw [hU2]
    exact byteSpec_bnd 9 B2 v2 v3 R2 (8 * 9 - 18 - 9 - 9) 3 3 5 4 7 31 9 hB2 hv2 hv3 hR2
      (by norm_num) (by norm_num) (by norm_num) (by norm_num) (by norm_num)
  · rw [hU3]
    exact byteSpec_bnd 9 B3 v3 v4 R3 (8 * 9 - 27 - 9 - 9) 4 4 4 5 15 15 9 hB3 hv3 hv4 hR3
      (by norm_num) (by norm_num) (by norm_num) (by norm_num) (by norm_num)
  · rw [hU4]
    exact byteSpec_bnd 9 B4 v4 v5 R4 (8 * 9 - 36 - 9 - 9) 5 5 3 6 31 7 9 hB4 hv4 hv5 hR4
      (by norm_num) (by norm_num) (by norm_num) (by norm_num) (by norm_num)
  · rw [hU5]
    exact byteSpec_bnd 9 B5 v5 v6 R5 (8 * 9 - 45 - 9 - 9) 6 6 2 7 63 3 9 hB5 hv5 hv6 hR5
      (by norm_num) (by norm_num) (by norm_num) (by norm_num) (by norm_num)
  · rw [hU6]
    exact byteSpec_bnd 9 B6 v6 v7 R6 (8 * 9 - 54 - 9 - 9) 7 7 1 8 127 1 9 hB6 hv6 hv7 hR6
      (by norm_num) (by norm_num) (by norm_num) (by norm_num) (by norm_num)
  · rw [hT7]
    exact byteSpec_mid0 9 A7 v7 S7 (8 * 9 - 63 - 9) 9 8 hA7 hS7
      (by norm_num) (by norm_num)

set_option maxRecDepth 16000 in
set_option maxHeartbeats 1000000 in
theorem c5_pack_eq_10 (v0 v1 v2 v3 v4 v5 v6 v7 : Nat) (hv0 : v0 < 2 ^ 10) (hv1 : v1 < 2 ^ 10) (hv2 : v2 < 2 ^ 10) (hv3 : v3 < 2 ^ 10) (hv4 : v4 < 2 ^ 10) (hv5 : v5 < 2 ^ 10) (hv6 : v6 < 2 ^ 10) (hv7 : v7 < 2 ^ 10) :
    (packSeq (BitPacker.new (List.replicate 10 0)) [(v0, 10), (v1, 10), (v2, 10), (v3, 10), (v4, 10), (v5, 10), (v6, 10), (v7, 10)]).bytes
      = pack_bits_10 v0 v1 v2 v3 v4 v5 v6 v7 := by
  have hvs : ∀ p ∈ ([(v0, 10), (v1, 10), (v2, 10), (v3, 10), (v4, 10), (v5, 10), (v6, 10), (v7, 10)] : List (Nat × Nat)), p.1 < 2 ^ p.2 := by
    intro p hp
    simp only [List.mem_cons, List.not_mem_nil, or_false] at hp
    rcases hp with rfl | rfl | rfl | rfl | rfl | rfl | rfl | rfl
    exacts [hv0, hv1, hv2, hv3, hv4, hv5, hv6, hv7]
  obtain ⟨-, -, -, ⟨hlen, hbytes⟩, -, -⟩ :=
    packSeq_inv 10 [(v0, 10), (v1, 10), (v2, 10), (v3, 10), (v4, 10), (v5, 10), (v6, 10), (v7, 10)] 0 0 _ hvs
      (by norm_num [List.map_cons, List.map_nil, List.sum_cons, List.sum_nil]) (packInv_init 10)
  have key : (packSeq (BitPacker.new (List.replicate 10 0)) [(v0, 10), (v1, 10), (v2, 10), (v3, 10), (v4, 10), (v5, 10), (v6, 10), (v7, 10)]).bytes
      = [ ByteSpec 10 (streamT 10 [(v0, 10), (v1, 10), (v2, 10), (v3, 10), (v4, 10), (v5, 10), (v6, 10), (v7, 10)] 0 0) 0,
          ByteSpec 10 (streamT 10 [(v0, 10), (v1, 10), (v2, 10), (v3, 10), (v4, 10), (v5, 10), (v6, 10), (v7, 10)] 0 0) 1,
          ByteSpec 10 (streamT 10 [(v0, 10), (v1, 10), (v2, 10), (v3, 10), (v4, 10), (v5, 10), (v6, 10), (v7, 10)] 0 0) 2,
          ByteSpec 10 (streamT 10 [(v0, 10), (v1, 10), (v2, 10), (v3, 10), (v4, 10), (v5, 10), (v6, 10), (v7, 10)] 0 0) 3,
          ByteSpec 10 (streamT 10 [(v0, 10), (v1, 10), (v2, 10), (v3, 10), (v4, 10), (v5, 10), (v6, 10), (v7, 10)] 0 0) 4,
          ByteSpec 10 (streamT 10 [(v0, 10), (v1, 10), (v2, 10), (v3, 10), (v4, 10), (v5, 10), (v6, 10), (v7, 10)] 0 0) 5,
          ByteSpec 10 (streamT 10 [(v0, 10), (v1, 10), (v2, 10), (v3, 10), (v4, 10), (v5, 10), (v6, 10), (v7, 10)] 0 0) 6,
          ByteSpec 10 (streamT 10 [(v0, 10), (v1, 10), (v2, 10), (v3, 10), (v4, 10), (v5, 10), (v6, 10), (v7, 10)] 0 0) 7,
          ByteSpec 10 (streamT 10 [(v0, 10), (v1, 10), (v2, 10), (v3, 10), (v4, 10), (v5, 10), (v6, 10), (v7, 10)] 0 0) 8,
          ByteSpec 10 (streamT 10 [(v0, 10), (v1, 10), (v2, 10), (v3, 10), (v4, 10), (v5, 10), (v6, 10), (v7, 10)] 0 0) 9 ] :=
    (list_eq_map_range_of_getD _ _ 10 hlen hbytes).trans (by rfl)
  have key2 : pack_bits_10 v0 v1 v2 v3 v4 v5 v6 v7
      = [ u8 (((v0 >>> 2) &&& 0xff)),
          u8 (((((v0) &&& 0x3) <<< 6) ||| ((v1 >>> 4) &&& 0x3f))),
          u8 (((((v1) &&& 0xf) <<< 4) ||| ((v2 >>> 6) &&& 0xf))),
          u8 (((((v2) &&& 0x3f) <<< 2) ||| ((v3 >>> 8) &&& 0x3))),
          u8 (((v3) &&& 0xff)),
          u8 (((v4 >>> 2) &&& 0xff)),
          u8 (((((v4) &&& 0x3) <<< 6) ||| ((v5 >>> 4) &&& 0x3f))),
          u8 (((((v5) &&& 0xf) <<< 4) ||| ((v6 >>> 6) &&& 0xf))),
          u8 (((((v6) &&& 0x3f) <<< 2) ||| ((v7 >>> 8) &&& 0x3))),
          u8 (((v7) &&& 0xff)) ] := rfl
  obtain ⟨A0, S0, hT0, hA0, hS0⟩ :=
    streamT_decomp 10 [(v0, 10), (v1, 10), (v2, 10), (v3, 10), (v4, 10), (v5, 10), (v6, 10), (v7, 10)] [] [(v1, 10), (v2, 10), (v3, 10), (v4, 10), (v5, 10), (v6, 10), (v7, 10)] v0 10 0 rfl rfl hvs
      (by norm_num [List.map_cons, List.map_nil, List.sum_cons, List.sum_nil])
  obtain ⟨A3, S3, hT3, hA3, hS3⟩ :=
    streamT_decomp 10 [(v0, 10), (v1, 10), (v2, 10), (v3, 10), (v4, 10), (v5, 10), (v6, 10), (v7, 10)] [(v0, 10), (v1, 10), (v2, 10)] [(v4, 10), (v5, 10), (v6, 10), (v7, 10)] v3 10 30 rfl rfl hvs
      (by norm_num [List.map_cons, List.map_nil, List.sum_cons, List.sum_nil])
  obtain ⟨A4, S4, hT4, hA4, hS4⟩ :=
    streamT_decomp 10 [(v0, 10), (v1, 10), (v2, 10), (v3, 10), (v4, 10), (v5, 10), (v6, 10), (v7, 10)] [(v0, 10), (v1, 10), (v2, 10), (v3, 10)] [(v5, 10), (v6, 10), (v7, 10)] v4 10 40 rfl rfl hvs
      (by norm_num [List.map_cons, List.map_nil, List.sum_cons, List.sum_nil])
  obtain ⟨A7, S7, hT7, hA7, hS7⟩ :=
    streamT_decomp 10 [(v0, 10), (v1, 10), (v2, 10), (v3, 10), (v4, 10), (v5, 10), (v6, 10), (v7, 10)] [(v0, 10), (v1, 10), (v2, 10), (v3, 10), (v4, 10), (v5, 10), (v6, 10)] [] v7 10 70 rfl rfl hvs
      (by norm_num [List.map_cons, List.map_nil, List.sum_cons, List.sum_nil])
  obtain ⟨B0, R0, hU0, hB0, hR0⟩ :=
    streamT_decomp2 10 [(v0, 10), (v1, 10), (v2, 10), (v3, 10), (v4, 10), (v5, 10), (v6, 10), (v7, 10)] [] [(v2, 10), (v3, 10), (v4, 10), (v5, 10), (v6, 10), (v7, 10)] v0 v1 10 10 0 rfl rfl hvs
      (by norm_num [List.map_cons, List.map_nil, List.sum_cons, List.sum_nil])
  obtain ⟨B1, R1, hU1, hB1, hR1⟩ :=
    streamT_decomp2 10 [(v0, 10), (v1, 10), (v2, 10), (v3, 10), (v4, 10), (v5, 10), (v6, 10), (v7, 10)] [(v0, 10)] [(v3, 10), (v4, 10), (v5, 10), (v6, 10), (v7, 10)] v1 v2 10 10 10 rfl rfl hvs
      (by norm_num [List.map_cons, List.map_nil, List.sum_cons, List.sum_nil])
  obtain ⟨B2, R2, hU2, hB2, hR2⟩ :=
    streamT_decomp2 10 [(v0, 10), (v1, 10), (v2, 10), (v3, 10), (v4, 10), (v5, 10), (v6, 10), (v7, 10)] [(v0, 10), (v1, 10)] [(v4, 10), (v5, 10), (v6, 10), (v7, 10)] v2 v3 10 10 20 rfl rfl hvs
      (by norm_num [List.map_cons, List.map_nil, List.sum_cons, List.sum_nil])
  obtain ⟨B4, R4, hU4, hB4, hR4⟩ :=
    streamT_decomp2 10 [(v0, 10), (v1, 10), (v2, 10), (v3, 10), (v4, 10), (v5, 10), (v6, 10), (v7, 10)] [(v0, 10), (v1, 10), (v2, 10), (v3, 10)] [(v6, 10), (v7, 10)] v4 v5 10 10 40 rfl rfl hvs
      (by norm_num [List.map_cons, List.map_nil, List.sum_cons, List.sum_nil])
  obtain ⟨B5, R5, hU5, hB5, hR5⟩ :=
    streamT_decomp2 10 [(v0, 10), (v1, 10), (v2, 10), (v3, 10), (v4, 10), (v5, 10), (v6, 10), (v7, 10)] [(v0, 10), (v1, 10), (v2, 10), (v3, 10), (v4, 10)] [(v7, 10)] v5 v6 10 10 50 rfl rfl hvs
      (by norm_num [List.map_cons, List.map_nil, List.sum_cons, List.sum_nil])
  obtain ⟨B6, R6, hU6, hB6, hR6⟩ :=
    streamT_decomp2 10 [(v0, 10), (v1, 10), (v2, 10), (v3, 10), (v4, 10), (v5, 10), (v6, 10), (v7, 10)] [(v0, 10), (v1, 10), (v2, 10), (v3, 10), (v4, 10), (v5, 10)] [] v6 v7 10 10 60 rfl rfl hvs
      (by norm_num [List.map_cons, List.map_nil, List.sum_cons, List.sum_nil])
  rw [key, key2]
  simp only [List.cons.injEq]
  refine ⟨?_, ?_, ?_, ?_, ?_, ?_, ?_, ?_, ?_, ?_, trivial⟩
  · rw [hT0]
    exact byteSpec_mid 10 A0 v0 S0 (8 * 10 - 0 - 10) 10 0 2 hA0 hS0
      (by norm_num) (by norm_num)
  · rw [hU0]
    exact byteSpec_bnd 10 B0 v0 v1 R0 (8 * 10 - 0 - 10 - 10) 1 2 6 4 3 63 10 hB0 hv0 hv1 hR0
      (by norm_num) (by norm_num) (by norm_num) (by norm_num) (by norm_num)
  · rw [hU1]
    exact byteSpec_bnd 10 B1 v1 v2 R1 (8 * 10 - 10 - 10 - 10) 2 4 4 6 15 15 10 hB1 hv1 hv2 hR1
      (by norm_num) (by norm_num) (by norm_num) (by norm_num) (by norm_num)
  · rw [hU2]
    exact byteSpec_bnd 10 B2 v2 v3 R2 (8 * 10 - 20 - 10 - 10) 3 6 2 8 63 3 10 hB2 hv2 hv3 hR2
      (by norm_num) (by norm_num) (by norm_num) (by norm_num) (by norm_num)
  · rw [hT3]
    exact byteSpec_mid0 10 A3 v3 S3 (8 * 10 - 30 - 10) 10 4 hA3 hS3
      (by norm_num) (by norm_num)
  · rw [hT4]
    exact byteSpec_mid 10 A4 v4 S4 (8 * 10 - 40 - 10) 10 5 2 hA4 hS4
      (by norm_num) (by norm_num)
  · rw [hU4]
    exact byteSpec_bnd 10 B4 v4 v5 R4 (8 * 10 - 40 - 10 - 10) 6 2 6 4 3 63 10 hB4 hv4 hv5 hR4
      (by norm_num) (by norm_num) (by norm_num) (by norm_num) (by norm_num)
  · rw [hU5]
    exact byteSpec_bnd 10 B5 v5 v6 R5 (8 * 10 - 50 - 10 - 10) 7 4 4 6 15 15 10 hB5 hv5 hv6 hR5
      (by norm_num) (by norm_num) (by norm_num) (by norm_num) (by norm_num)
  · rw [hU6]
    exact byteSpec_bnd 10 B6 v6 v7 R6 (8 * 10 - 60 - 10 - 10) 8 6 2 8 63 3 10 hB6 hv6 hv7 hR6
      (by norm_num) (by norm_num) (by norm_num) (by norm_num) (by norm_num)
  · rw [hT7]
    exact byteSpec_mid0 10 A7 v7 S7 (8 * 10 - 70 - 10) 10 9 hA7 hS7
      (by norm_num) (by norm_num)

set_option maxRecDepth 16000 in
set_option maxHeartbeats 1000000 in
theorem c5_pack_eq_11 (v0 v1 v2 v3 v4 v5 v6 v7 : Nat) (hv0 : v0 < 2 ^ 11) (hv1 : v1 < 2 ^ 11) (hv2 : v2 < 2 ^ 11) (hv3 : v3 < 2 ^ 11) (hv4 : v4 < 2 ^ 11) (hv5 : v5 < 2 ^ 11) (hv6 : v6 < 2 ^ 11) (hv7 : v7 < 2 ^ 11) :
    (packSeq (BitPacker.new (List.replicate 11 0)) [(v0, 11), (v1, 11), (v2, 11), (v3, 11), (v4, 11), (v5, 11), (v6, 11), (v7, 11)]).bytes
      = pack_bits_11 v0 v1 v2 v3 v4 v5 v6 v7 := by
  have hvs : ∀ p ∈ ([(v0, 11), (v1, 11), (v2, 11), (v3, 11), (v4, 11), (v5, 11), (v6, 11), (v7, 11)] : List (Nat × Nat)), p.1 < 2 ^ p.2 := by
    intro p hp
    simp only [List.mem_cons, List.not_mem_nil, or_false] at hp
    rcases hp with rfl | rfl | rfl | rfl | rfl | rfl | rfl | rfl
    exacts [hv0, hv1, hv2, hv3, hv4, hv5, hv6, hv7]
  obtain ⟨-, -, -, ⟨hlen, hbytes⟩, -, -⟩ :=
    packSeq_inv 11 [(v0, 11), (v1, 11), (v2, 11), (v3, 11), (v4, 11), (v5, 11), (v6, 11), (v7, 11)] 0 0 _ hvs
      (by norm_num [List.map_cons, List.map_nil, List.sum_cons, List.sum_nil]) (packInv_init 11)
  have key : (packSeq (BitPacker.new (List.replicate 11 0)) [(v0, 11), (v1, 11), (v2, 11), (v3, 11), (v4, 11), (v5, 11), (v6, 11), (v7, 11)]).bytes
      = [ ByteSpec 11 (streamT 11 [(v0, 11), (v1, 11), (v2, 11), (v3, 11), (v4, 11), (v5, 11), (v6, 11), (v7, 11)] 0 0) 0,
          ByteSpec 11 (streamT 11 [(v0, 11), (v1, 11), (v2, 11), (v3, 11), (v4, 11), (v5, 11), (v6, 11), (v7, 11)] 0 0) 1,
          ByteSpec 11 (streamT 11 [(v0, 11), (v1, 11), (v2, 11), (v3, 11), (v4, 11), (v5, 11), (v6, 11), (v7, 11)] 0 0) 2,
          ByteSpec 11 (streamT 11 [(v0, 11), (v1, 11), (v2, 11), (v3, 11), (v4, 11), (v5, 11), (v6, 11), (v7, 11)] 0 0) 3,
          ByteSpec 11 (streamT 11 [(v0, 11), (v1, 11), (v2, 11), (v3, 11), (v4, 11), (v5, 11), (v6, 11), (v7, 11)] 0 0) 4,
          ByteSpec 11 (streamT 11 [(v0, 11), (v1, 11), (v2, 11), (v3, 11), (v4, 11), (v5, 11), (v6, 11), (v7, 11)] 0 0) 5,
          ByteSpec 11 (streamT 11 [(v0, 11), (v1, 11), (v2, 11), (v3, 11), (v4, 11), (v5, 11), (v6, 11), (v7, 11)] 0 0) 6,
          ByteSpec 11 (streamT 11 [(v0, 11), (v1, 11), (v2, 11), (v3, 11), (v4, 11), (v5, 11), (v6, 11), (v7, 11)] 0 0) 7,
          ByteSpec 11 (streamT 11 [(v0, 11), (v1, 11), (v2, 11), (v3, 11), (v4, 11), (v5, 11), (v6, 11), (v7, 11)] 0 0) 8,
          ByteSpec 11 (streamT 11 [(v0, 11), (v1, 11), (v2, 11), (v3, 11), (v4, 11), (v5, 11), (v6, 11), (v7, 11)] 0 0) 9,
          ByteSpec 11 (streamT 11 [(v0, 11), (v1, 11), (v2, 11), (v3, 11), (v4, 11), (v5, 11), (v6, 11), (v7, 11)] 0 0) 10 ] :=
    (list_eq_map_range_of_getD _ _ 11 hlen hbytes).trans (by rfl)
  have key2 : pack_bits_11 v0 v1 v2 v3 v4 v5 v6 v7
      = [ u8 (((v0 >>> 3) &&& 0xff)),
          u8 (((((v0) &&& 0x7) <<< 5) ||| ((v1 >>> 6) &&& 0x1f))),
          u8 (((((v1) &&& 0x3f) <<< 2) ||| ((v2 >>> 9) &&& 0x3))),
          u8 (((v2 >>> 1) &&& 0xff)),
          u8 (((((v2) &&& 0x1) <<< 7) ||| ((v3 >>> 4) &&& 0x7f))),
          u8 (((((v3) &&& 0xf) <<< 4) ||| ((v4 >>> 7) &&& 0xf))),
          u8 (((((v4) &&& 0x7f) <<< 1) ||| ((v5 >>> 10) &&& 0x1))),
          u8 (((v5 >>> 2) &&& 0xff)),
          u8 (((((v5) &&& 0x3) <<< 6) ||| ((v6 >>> 5) &&& 0x3f))),
          u8 (((((v6) &&& 0x1f) <<< 3) ||| ((v7 >>> 8) &&& 0x7))),
          u8 (((v7) &&& 0xff)) ] := rfl
  obtain ⟨A0, S0, hT0, hA0, hS0⟩ :=
    streamT_decomp 11 [(v0, 11), (v1, 11), (v2, 11), (v3, 11), (v4, 11), (v5, 11), (v6, 11), (v7, 11)] [] [(v1, 11), (v2, 11), (v3, 11), (v4, 11), (v5, 11), (v6, 11), (v7, 11)] v0 11 0 rfl rfl hvs
      (by norm_num [List.map_cons, List.map_nil, List.sum_cons, List.sum_nil])
  obtain ⟨A2, S2, hT2, hA2, hS2⟩ :=
    streamT_decomp 11 [(v0, 11), (v1, 11), (v2, 11), (v3, 11), (v4, 11), (v5, 11), (v6, 11), (v7, 11)] [(v0, 11), (v1, 11)] [(v3, 11), (v4, 11), (v5, 11), (v6, 11), (v7, 11)] v2 11 22 rfl rfl hvs
      (by norm_num [List.map_cons, List.map_nil, List.sum_cons, List.sum_nil])
  obtain ⟨A5, S5, hT5, hA5, hS5⟩ :=
    streamT_decomp 11 [(v0, 11), (v1, 11), (v2, 11), (v3, 11), (v4, 11), (v5, 11), (v6, 11), (v7, 11)] [(v0, 11), (v1, 11), (v2, 11), (v3, 11), (v4, 11)] [(v6, 11), (v7, 11)] v5 11 55 rfl rfl hvs
      (by norm_num [List.map_cons, List.map_nil, List.sum_cons, List.sum_nil])
  obtain ⟨A7, S7, hT7, hA7, hS7⟩ :=
    streamT_decomp 11 [(v0, 11), (v1, 11), (v2, 11), (v3, 11), (v4, 11), (v5, 11), (v6, 11), (v7, 11)] [(v0, 11), (v1, 11), (v2, 11), (v3, 11), (v4, 11), (v5, 11), (v6, 11)] [] v7 11 77 rfl rfl hvs
      (by norm_num [List.map_cons, List.map_nil, List.sum_cons, List.sum_nil])
  obtain ⟨B0, R0, hU0, hB0, hR0⟩ :=
    streamT_decomp2 11 [(v0, 11), (v1, 11), (v2, 11), (v3, 11), (v4, 11), (v5, 11), (v6, 11), (v7, 11)] [] [(v2, 11), (v3, 11), (v4, 11), (v5, 11), (v6, 11), (v7, 11)] v0 v1 11 11 0 rfl rfl hvs
      (by norm_num [List.map_cons, List.map_nil, List.sum_cons, List.sum_nil])
  obtain ⟨B1, R1, hU1, hB1, hR1⟩ :=
    streamT_decomp2 11 [(v0, 11), (v1, 11), (v2, 11), (v3, 11), (v4, 11), (v5, 11), (v6, 11), (v7, 11)] [(v0, 11)] [(v3, 11), (v4, 11), (v5, 11), (v6, 11), (v7, 11)] v1 v2 11 11 11 rfl rfl hvs
      (by norm_num [List.map_cons, List.map_nil, List.sum_cons, List.sum_nil])
  obtain ⟨B2, R2, hU2, hB2, hR2⟩ :=
    streamT_decomp2 11 [(v0, 11), (v1, 11), (v2, 11), (v3, 11), (v4, 11), (v5, 11), (v6, 11), (v7, 11)] [(v0, 11), (v1, 11)] [(v4, 11), (v5, 11), (v6, 11), (v7, 11)] v2 v3 11 11 22 rfl rfl hvs
      (by norm_num [List.map_cons, List.map_nil, List.sum_cons, List.sum_nil])
  obtain ⟨B3, R3, hU3, hB3, hR3⟩ :=
    streamT_decomp2 11 [(v0, 11), (v1, 11), (v2, 11), (v3, 11), (v4, 11), (v5, 11), (v6, 11), (v7, 11)] [(v0, 11), (v1, 11), (v2, 11)] [(v5, 11), (v6, 11), (v7, 11)] v3 v4 11 11 33 rfl rfl hvs
      (by norm_num [List.map_cons, List.map_nil, List.sum_cons, List.sum_nil])
  obtain ⟨B4, R4, hU4, hB4, hR4⟩ :=
    streamT_decomp2 11 [(v0, 11), (v1, 11), (v2, 11), (v3, 11), (v4, 11), (v5, 11), (v6, 11), (v7, 11)] [(v0, 11), (v1, 11), (v2, 11), (v3, 11)] [(v6, 11), (v7, 11)] v4 v5 11 11 44 rfl rfl hvs
      (by norm_num [List.map_cons, List.map_nil, List.sum_cons, List.sum_nil])
  obtain ⟨B5, R5, hU5, hB5, hR5⟩ :=
    streamT_decomp2 11 [(v0, 11), (v1, 11), (v2, 11), (v3, 11), (v4, 11), (v5, 11), (v6, 11), (v7, 11)] [(v0, 11), (v1, 11), (v2, 11), (v3, 11), (v4, 11)] [(v7, 11)] v5 v6 11 11 55 rfl rfl hvs
      (by norm_num [List.map_cons, List.map_nil, List.sum_cons, List.sum_nil])
  obtain ⟨B6, R6, hU6, hB6, hR6⟩ :=
    streamT_decomp2 11 [(v0, 11), (v1, 11), (v2, 11), (v3, 11), (v4, 11), (v5, 11), (v6, 11), (v7, 11)] [(v0, 11), (v1, 11), (v2, 11), (v3, 11), (v4, 11), (v5, 11)] [] v6 v7 11 11 66 rfl rfl hvs
      (by norm_num [List.map_cons, List.map_nil, List.sum_cons, List.sum_nil])
  rw [key, key2]
  simp only [List.cons.injEq]
  refine ⟨?_, ?_, ?_, ?_, ?_, ?_, ?_, ?_, ?_, ?_, ?_, trivial⟩
  · rw [hT0]
    exact byteSpec_mid 11 A0 v0 S0 (8 * 11 - 0 - 11) 11 0 3 hA0 hS0
      (by norm_num) (by norm_num)
  · rw [hU0]
    exact byteSpec_bnd 11 B0 v0 v1 R0 (8 * 11 - 0 - 11 - 11) 1 3 5 6 7 31 11 hB0 hv0 hv1 hR0
      (by norm_num) (by norm_num) (by norm_num) (by norm_num) (by norm_num)
  · rw [hU1]
    exact byteSpec_bnd 11 B1 v1 v2 R1 (8 * 11 - 11 - 11 - 11) 2 6 2 9 63 3 11 hB1 hv1 hv2 hR1
      (by norm_num) (by norm_num) (by norm_num) (by norm_num) (by norm_num)
  · rw [hT2]
    exact byteSpec_mid 11 A2 v2 S2 (8 * 11 - 22 - 11) 11 3 1 hA2 hS2
      (by norm_num) (by norm_num)
  · rw [hU2]
    exact byteSpec_bnd 11 B2 v2 v3 R2 (8 * 11 - 22 - 11 - 11) 4 1 7 4 1 127 11 hB2 hv2 hv3 hR2
      (by norm_num) (by norm_num) (by norm_num) (by norm_num) (by norm_num)
  · rw [hU3]
    exact byteSpec_bnd 11 B3 v3 v4 R3 (8 * 11 - 33 - 11 - 11) 5 4 4 7 15 15 11 hB3 hv3 hv4 hR3
      (by norm_num) (by norm_num) (by norm_num) (by norm_num) (by norm_num)
  · rw [hU4]
    exact byteSpec_bnd 11 B4 v4 v5 R4 (8 * 11 - 44 - 11 - 11) 6 7 1 10 127 1 11 hB4 hv4 hv5 hR4
      (by norm_num) (by norm_num) (by norm_num) (by norm_num) (by norm_num)
  · rw [hT5]
    exact byteSpec_mid 11 A5 v5 S5 (8 * 11 - 55 - 11) 11 7 2 hA5 hS5
      (by norm_num) (by norm_num)
  · rw [hU5]
    exact byteSpec_bnd 11 B5 v5 v6 R5 (8 * 11 - 55 - 11 - 11) 8 2 6 5 3 63 11 hB5 hv5 hv6 hR5
      (by norm_num) (by norm_num) (by norm_num) (by norm_num) (by norm_num)
  · rw [hU6]
    exact byteSpec_bnd 11 B6 v6 v7 R6 (8 * 11 - 66 - 11 - 11) 9 5 3 8 31 7 11 hB6 hv6 hv7 hR6
      (by norm_num) (by norm_num) (by norm_num) (by norm_num) (by norm_num)
  · rw [hT7]
    exact byteSpec_mid0 11 A7 v7 S7 (8 * 11 - 77 - 11) 11 10 hA7 hS7
      (by norm_num) (by norm_num)

set_option maxRecDepth 16000 in
set_option maxHeartbeats 1000000 in
theorem c5_pack_eq_12 (v0 v1 v2 v3 v4 v5 v6 v7 : Nat) (hv0 : v0 < 2 ^ 12) (hv1 : v1 < 2 ^ 12) (hv2 : v2 < 2 ^ 12) (hv3 : v3 < 2 ^ 12) (hv4 : v4 < 2 ^ 12) (hv5 : v5 < 2 ^ 12) (hv6 : v6 < 2 ^ 12) (hv7 : v7 < 2 ^ 12) :
    (packSeq (BitPacker.new (List.replicate 12 0)) [(v0, 12), (v1, 12), (v2, 12), (v3, 12), (v4, 12), (v5, 12), (v6, 12), (v7, 12)]).bytes
      = pack_bits_12 v0 v1 v2 v3 v4 v5 v6 v7 := by
  have hvs : ∀ p ∈ ([(v0, 12), (v1, 12), (v2, 12), (v3, 12), (v4, 12), (v5, 12), (v6, 12), (v7, 12)] : List (Nat × Nat)), p.1 < 2 ^ p.2 := by
    intro p hp
    simp only [List.mem_cons, List.not_mem_nil, or_false] at hp
    rcases hp with rfl | rfl | rfl | rfl | rfl | rfl | rfl | rfl
    exacts [hv0, hv1, hv2, hv3, hv4, hv5, hv6, hv7]
  obtain ⟨-, -, -, ⟨hlen, hbytes⟩, -, -⟩ :=
    packSeq_inv 12 [(v0, 12), (v1, 12), (v2, 12), (v3, 12), (v4, 12), (v5, 12), (v6, 12), (v7, 12)] 0 0 _ hvs
      (by norm_num [List.map_cons, List.map_nil, List.sum_cons, List.sum_nil]) (packInv_init 12)
  have key : (packSeq (BitPacker.new (List.replicate 12 0)) [(v0, 12), (v1, 12), (v2, 12), (v3, 12), (v4, 12), (v5, 12), (v6, 12), (v7, 12)]).bytes
      = [ ByteSpec 12 (streamT 12 [(v0, 12), (v1, 12), (v2, 12), (v3, 12), (v4, 12), (v5, 12), (v6, 12), (v7, 12)] 0 0) 0,
          ByteSpec 12 (streamT 12 [(v0, 12), (v1, 12), (v2, 12), (v3, 12), (v4, 12), (v5, 12), (v6, 12), (v7, 12)] 0 0) 1,
          ByteSpec 12 (streamT 12 [(v0, 12), (v1, 12), (v2, 12), (v3, 12), (v4, 12), (v5, 12), (v6, 12), (v7, 12)] 0 0) 2,
          ByteSpec 12 (streamT 12 [(v0, 12), (v1, 12), (v2, 12), (v3, 12), (v4, 12), (v5, 12), (v6, 12), (v7, 12)] 0 0) 3,
          ByteSpec 12 (streamT 12 [(v0, 12), (v1, 12), (v2, 12), (v3, 12), (v4, 12), (v5, 12), (v6, 12), (v7, 12)] 0 0) 4,
          ByteSpec 12 (streamT 12 [(v0, 12), (v1, 12), (v2, 12), (v3, 12), (v4, 12), (v5, 12), (v6, 12), (v7, 12)] 0 0) 5,
          ByteSpec 12 (streamT 12 [(v0, 12), (v1, 12), (v2, 12), (v3, 12), (v4, 12), (v5, 12), (v6, 12), (v7, 12)] 0 0) 6,
          ByteSpec 12 (streamT 12 [(v0, 12), (v1, 12), (v2, 12), (v3, 12), (v4, 12), (v5, 12), (v6, 12), (v7, 12)] 0 0) 7,
          ByteSpec 12 (streamT 12 [(v0, 12), (v1, 12), (v2, 12), (v3, 12), (v4, 12), (v5, 12), (v6, 12), (v7, 12)] 0 0) 8,
          ByteSpec 12 (streamT 12 [(v0, 12), (v1, 12), (v2, 12), (v3, 12), (v4, 12), (v5, 12), (v6, 12), (v7, 12)] 0 0) 9,
          ByteSpec 12 (streamT 12 [(v0, 12), (v1, 12), (v2, 12), (v3, 12), (v4, 12), (v5, 12), (v6, 12), (v7, 12)] 0 0) 10,
          ByteSpec 12 (streamT 12 [(v0, 12), (v1, 12), (v2, 12), (v3, 12), (v4, 12), (v5, 12), (v6, 12), (v7, 12)] 0 0) 11 ] :=
    (list_eq_map_range_of_getD _ _ 12 hlen hbytes).trans (by rfl)
  have key2 : pack_bits_12 v0 v1 v2 v3 v4 v5 v6 v7
      = [ u8 (((v0 >>> 4) &&& 0xff)),
          u8 (((((v0) &&& 0xf) <<< 4) ||| ((v1 >>> 8) &&& 0xf))),
          u8 (((v1) &&& 0xff)),
          u8 (((v2 >>> 4) &&& 0xff)),
          u8 (((((v2) &&& 0xf) <<< 4) ||| ((v3 >>> 8) &&& 0xf))),
          u8 (((v3) &&& 0xff)),
          u8 (((v4 >>> 4) &&& 0xff)),
          u8 (((((v4) &&& 0xf) <<< 4) ||| ((v5 >>> 8) &&& 0xf))),
          u8 (((v5) &&& 0xff)),
          u8 (((v6 >>> 4) &&& 0xff)),
          u8 (((((v6) &&& 0xf) <<< 4) ||| ((v7 >>> 8) &&& 0xf))),
          u8 (((v7) &&& 0xff)) ] := rfl
  obtain ⟨A0, S0, hT0, hA0, hS0⟩ :=
    streamT_decomp 12 [(v0, 12), (v1, 12), (v2, 12), (v3, 12), (v4, 12), (v5, 12), (v6, 12), (v7, 12)] [] [(v1, 12), (v2, 12), (v3, 12), (v4, 12), (v5, 12), (v6, 12), (v7, 12)] v0 12 0 rfl rfl hvs
      (by norm_num [List.map_cons, List.map_nil, List.sum_cons, List.sum_nil])
  obtain ⟨A1, S1, hT1, hA1, hS1⟩ :=
    streamT_decomp 12 [(v0, 12), (v1, 12), (v2, 12), (v3, 12), (v4, 12), (v5, 12), (v6, 12), (v7, 12)] [(v0, 12)] [(v2, 12), (v3, 12), (v4, 12), (v5, 12), (v6, 12), (v7, 12)] v1 12 12 rfl rfl hvs
      (by norm_num [List.map_cons, List.map_nil, List.sum_cons, List.sum_nil])
  obtain ⟨A2, S2, hT2, hA2, hS2⟩ :=
    streamT_decomp 12 [(v0, 12), (v1, 12), (v2, 12), (v3, 12), (v4, 12), (v5, 12), (v6, 12), (v7, 12)] [(v0, 12), (v1, 12)] [(v3, 12), (v4, 12), (v5, 12), (v6, 12), (v7, 12)] v2 12 24 rfl rfl hvs
      (by norm_num [List.map_cons, List.map_nil, List.sum_cons, List.sum_nil])
  obtain ⟨A3, S3, hT3, hA3, hS3⟩ :=
    streamT_decomp 12 [(v0, 12), (v1, 12), (v2, 12), (v3, 12), (v4, 12), (v5, 12), (v6, 12), (v7, 12)] [(v0, 12), (v1, 12), (v2, 12)] [(v4, 12), (v5, 12), (v6, 12), (v7, 12)] v3 12 36 rfl rfl hvs
      (by norm_num [List.map_cons, List.map_nil, List.sum_cons, List.sum_nil])
  obtain ⟨A4, S4, hT4, hA4, hS4⟩ :=
    streamT_decomp 12 [(v0, 12), (v1, 12), (v2, 12), (v3, 12), (v4, 12), (v5, 12), (v6, 12), (v7, 12)] [(v0, 12), (v1, 12), (v2, 12), (v3, 12)] [(v5, 12), (v6, 12), (v7, 12)] v4 12 48 rfl rfl hvs
      (by norm_num [List.map_cons, List.map_nil, List.sum_cons, List.sum_nil])
  obtain ⟨A5, S5, hT5, hA5, hS5⟩ :=
    streamT_decomp 12 [(v0, 12), (v1, 12), (v2, 12), (v3, 12), (v4, 12), (v5, 12), (v6, 12), (v7, 12)] [(v0, 12), (v1, 12), (v2, 12), (v3, 12), (v4, 12)] [(v6, 12), (v7, 12)] v5 12 60 rfl rfl hvs
      (by norm_num [List.map_cons, List.map_nil, List.sum_cons, List.sum_nil])
  obtain ⟨A6, S6, hT6, hA6, hS6⟩ :=
    streamT_decomp 12 [(v0, 12), (v1, 12), (v2, 12), (v3, 12), (v4, 12), (v5, 12), (v6, 12), (v7, 12)] [(v0, 12), (v1, 12), (v2, 12), (v3, 12), (v4, 12), (v5, 12)] [(v7, 12)] v6 12 72 rfl rfl hvs
      (by norm_num [List.map_cons, List.map_nil, List.sum_cons, List.sum_nil])
  obtain ⟨A7, S7, hT7, hA7, hS7⟩ :=
    streamT_decomp 12 [(v0, 12), (v1, 12), (v2, 12), (v3, 12), (v4, 12), (v5, 12), (v6, 12), (v7, 12)] [(v0, 12), (v1, 12), (v2, 12), (v3, 12), (v4, 12), (v5, 12), (v6, 12)] [] v7 12 84 rfl rfl hvs
      (by norm_num [List.map_cons, List.map_nil, List.sum_cons, List.sum_nil])
  obtain ⟨B0, R0, hU0, hB0, hR0⟩ :=
    streamT_decomp2 12 [(v0, 12), (v1, 12), (v2, 12), (v3, 12), (v4, 12), (v5, 12), (v6, 12), (v7, 12)] [] [(v2, 12), (v3, 12), (v4, 12), (v5, 12), (v6, 12), (v7, 12)] v0 v1 12 12 0 rfl rfl hvs
      (by norm_num [List.map_cons, List.map_nil, List.sum_cons, List.sum_nil])
  obtain ⟨B2, R2, hU2, hB2, hR2⟩ :=
    streamT_decomp2 12 [(v0, 12), (v1, 12), (v2, 12), (v3, 12), (v4, 12), (v5, 12), (v6, 12), (v7, 12)] [(v0, 12), (v1, 12)] [(v4, 12), (v5, 12), (v6, 12), (v7, 12)] v2 v3 12 12 24 rfl rfl hvs
      (by norm_num [List.map_cons, List.map_nil, List.sum_cons, List.sum_nil])
  obtain ⟨B4, R4, hU4, hB4, hR4⟩ :=
    streamT_decomp2 12 [(v0, 12), (v1, 12), (v2, 12), (v3, 12), (v4, 12), (v5, 12), (v6, 12), (v7, 12)] [(v0, 12), (v1, 12), (v2, 12), (v3, 12)] [(v6, 12), (v7, 12)] v4 v5 12 12 48 rfl rfl hvs
      (by norm_num [List.map_cons, List.map_nil, List.sum_cons, List.sum_nil])
  obtain ⟨B6, R6, hU6, hB6, hR6⟩ :=
    streamT_decomp2 12 [(v0, 12), (v1, 12), (v2, 12), (v3, 12), (v4, 12), (v5, 12), (v6, 12), (v7, 12)] [(v0, 12), (v1, 12), (v2, 12), (v3, 12), (v4, 12), (v5, 12)] [] v6 v7 12 12 72 rfl rfl hvs
      (by norm_num [List.map_cons, List.map_nil, List.sum_cons, List.sum_nil])
  rw [key, key2]
  simp only [List.cons.injEq]
  refine ⟨?_, ?_, ?_, ?_, ?_, ?_, ?_, ?_, ?_, ?_, ?_, ?_, trivial⟩
  · rw [hT0]
    exact byteSpec_mid 12 A0 v0 S0 (8 * 12 - 0 - 12) 12 0 4 hA0 hS0
      (by norm_num) (by norm_num)
  · rw [hU0]
    exact byteSpec_bnd 12 B0 v0 v1 R0 (8 * 12 - 0 - 12 - 12) 1 4 4 8 15 15 12 hB0 hv0 hv1 hR0
      (by norm_num) (by norm_num) (by norm_num) (by norm_num) (by norm_num)
  · rw [hT1]
    exact byteSpec_mid0 12 A1 v1 S1 (8 * 12 - 12 - 12) 12 2 hA1 hS1
      (by norm_num) (by norm_num)
  · rw [hT2]
    exact byteSpec_mid 12 A2 v2 S2 (8 * 12 - 24 - 12) 12 3 4 hA2 hS2
      (by norm_num) (by norm_num)
  · rw [hU2]
    exact byteSpec_bnd 12 B2 v2 v3 R2 (8 * 12 - 24 - 12 - 12) 4 4 4 8 15 15 12 hB2 hv2 hv3 hR2
      (by norm_num) (by norm_num) (by norm_num) (by norm_num) (by norm_num)
  · rw [hT3]
    exact byteSpec_mid0 12 A3 v3 S3 (8 * 12 - 36 - 12) 12 5 hA3 hS3
      (by norm_num) (by norm_num)
  · rw [hT4]
    exact byteSpec_mid 12 A4 v4 S4 (8 * 12 - 48 - 12) 12 6 4 hA4 hS4
      (by norm_num) (by norm_num)
  · rw [hU4]
    exact byteSpec_bnd 12 B4 v4 v5 R4 (8 * 12 - 48 - 12 - 12) 7 4 4 8 15 15 12 hB4 hv4 hv5 hR4
      (by norm_num) (by norm_num) (by norm_num) (by norm_num) (by norm_num)
  · rw [hT5]
    exact byteSpec_mid0 12 A5 v5 S5 (8 * 12 - 60 - 12) 12 8 hA5 hS5
      (by norm_num) (by norm_num)
  · rw [hT6]
    exact byteSpec_mid 12 A6 v6 S6 (8 * 12 - 72 - 12) 12 9 4 hA6 hS6
      (by norm_num) (by norm_num)
  · rw [hU6]
    exact byteSpec_bnd 12 B6 v6 v7 R6 (8 * 12 - 72 - 12 - 12) 10 4 4 8 15 15 12 hB6 hv6 hv7 hR6
      (by norm_num) (by norm_num) (by norm_num) (by norm_num) (by norm_num)
  · rw [hT7]
    exact byteSpec_mid0 12 A7 v7 S7 (8 * 12 - 84 - 12) 12 11 hA7 hS7
      (by norm_num) (by norm_num)

set_option maxRecDepth 16000 in
set_option maxHeartbeats 1000000 in
theorem c5_pack_eq_13 (v0 v1 v2 v3 v4 v5 v6 v7 : Nat) (hv0 : v0 < 2 ^ 13) (hv1 : v1 < 2 ^ 13) (hv2 : v2 < 2 ^ 13) (hv3 : v3 < 2 ^ 13) (hv4 : v4 < 2 ^ 13) (hv5 : v5 < 2 ^ 13) (hv6 : v6 < 2 ^ 13) (hv7 : v7 < 2 ^ 13) :
    (packSeq (BitPacker.new (List.replicate 13 0)) [(v0, 13), (v1, 13), (v2, 13), (v3, 13), (v4, 13), (v5, 13), (v6, 13), (v7, 13)]).bytes
      = pack_bits_13 v0 v1 v2 v3 v4 v5 v6 v7 := by
  have hvs : ∀ p ∈ ([(v0, 13), (v1, 13), (v2, 13), (v3, 13), (v4, 13), (v5, 13), (v6, 13), (v7, 13)] : List (Nat × Nat)), p.1 < 2 ^ p.2 := by
    intro p hp
    simp only [List.mem_cons, List.not_mem_nil, or_false] at hp
    rcases hp with rfl | rfl | rfl | rfl | rfl | rfl | rfl | rfl
    exacts [hv0, hv1, hv2, hv3, hv4, hv5, hv6, hv7]
  obtain ⟨-, -, -, ⟨hlen, hbytes⟩, -, -⟩ :=
    packSeq_inv 13 [(v0, 13), (v1, 13), (v2, 13), (v3, 13), (v4, 13), (v5, 13), (v6, 13), (v7, 13)] 0 0 _ hvs
      (by norm_num [List.map_cons, List.map_nil, List.sum_cons, List.sum_nil]) (packInv_init 13)
  have key : (packSeq (BitPacker.new (List.replicate 13 0)) [(v0, 13), (v1, 13), (v2, 13), (v3, 13), (v4, 13), (v5, 13), (v6, 13), (v7, 13)]).bytes
      = [ ByteSpec 13 (streamT 13 [(v0, 13), (v1, 13), (v2, 13), (v3, 13), (v4, 13), (v5, 13), (v6, 13), (v7, 13)] 0 0) 0,
          ByteSpec 13 (streamT 13 [(v0, 13), (v1, 13), (v2, 13), (v3, 13), (v4, 13), (v5, 13), (v6, 13), (v7, 13)] 0 0) 1,
          ByteSpec 13 (streamT 13 [(v0, 13), (v1, 13), (v2, 13), (v3, 13), (v4, 13), (v5, 13), (v6, 13), (v7, 13)] 0 0) 2,
          ByteSpec 13 (streamT 13 [(v0, 13), (v1, 13), (v2, 13), (v3, 13), (v4, 13), (v5, 13), (v6, 13), (v7, 13)] 0 0) 3,
          ByteSpec 13 (streamT 13 [(v0, 13), (v1, 13), (v2, 13), (v3, 13), (v4, 13), (v5, 13), (v6, 13), (v7, 13)] 0 0) 4,
          ByteSpec 13 (streamT 13 [(v0, 13), (v1, 13), (v2, 13), (v3, 13), (v4, 13), (v5, 13), (v6, 13), (v7, 13)] 0 0) 5,
          ByteSpec 13 (streamT 13 [(v0, 13), (v1, 13), (v2, 13), (v3, 13), (v4, 13), (v5, 13), (v6, 13), (v7, 13)] 0 0) 6,
          ByteSpec 13 (streamT 13 [(v0, 13), (v1, 13), (v2, 13), (v3, 13), (v4, 13), (v5, 13), (v6, 13), (v7, 13)] 0 0) 7,
          ByteSpec 13 (streamT 13 [(v0, 13), (v1, 13), (v2, 13), (v3, 13), (v4, 13), (v5, 13), (v6, 13), (v7, 13)] 0 0) 8,
          ByteSpec 13 (streamT 13 [(v0, 13), (v1, 13), (v2, 13), (v3, 13), (v4, 13), (v5, 13), (v6, 13), (v7, 13)] 0 0) 9,
          ByteSpec 13 (streamT 13 [(v0, 13), (v1, 13), (v2, 13), (v3, 13), (v4, 13), (v5, 13), (v6, 13), (v7, 13)] 0 0) 10,
          ByteSpec 13 (streamT 13 [(v0, 13), (v1, 13), (v2, 13), (v3, 13), (v4, 13), (v5, 13), (v6, 13), (v7, 13)] 0 0) 11,
          ByteSpec 13 (streamT 13 [(v0, 13), (v1, 13), (v2, 13), (v3, 13), (v4, 13), (v5, 13), (v6, 13), (v7, 13)] 0 0) 12 ] :=
    (list_eq_map_range_of_getD _ _ 13 hlen hbytes).trans (by rfl)
  have key2 : pack_bits_13 v0 v1 v2 v3 v4 v5 v6 v7
      = [ u8 (((v0 >>> 5) &&& 0xff)),
          u8 (((((v0) &&& 0x1f) <<< 3) ||| ((v1 >>> 10) &&& 0x7))),
          u8 (((v1 >>> 2) &&& 0xff)),
          u8 (((((v1) &&& 0x3) <<< 6) ||| ((v2 >>> 7) &&& 0x3f))),
          u8 (((((v2) &&& 0x7f) <<< 1) ||| ((v3 >>> 12) &&& 0x1))),
          u8 (((v3 >>> 4) &&& 0xff)),
          u8 (((((v3) &&& 0xf) <<< 4) ||| ((v4 >>> 9) &&& 0xf))),
          u8 (((v4 >>> 1) &&& 0xff)),
          u8 (((((v4) &&& 0x1) <<< 7) ||| ((v5 >>> 6) &&& 0x7f))),
          u8 (((((v5) &&& 0x3f) <<< 2) ||| ((v6 >>> 11) &&& 0x3))),
          u8 (((v6 >>> 3) &&& 0xff)),
          u8 (((((v6) &&& 0x7) <<< 5) ||| ((v7 >>> 8) &&& 0x1f))),
          u8 (((v7) &&& 0xff)) ] := rfl
  obtain ⟨A0, S0, hT0, hA0, hS0⟩ :=
    streamT_decomp 13 [(v0, 13), (v1, 13), (v2, 13), (v3, 13), (v4, 13), (v5, 13), (v6, 13), (v7, 13)] [] [(v1, 13), (v2, 13), (v3, 13), (v4, 13), (v5, 13), (v6, 13), (v7, 13)] v0 13 0 rfl rfl hvs
      (by norm_num [List.map_cons, List.map_nil, List.sum_cons, List.sum_nil])
  obtain ⟨A1, S1, hT1, hA1, hS1⟩ :=
    streamT_decomp 13 [(v0, 13), (v1, 13), (v2, 13), (v3, 13), (v4, 13), (v5, 13), (v6, 13), (v7, 13)] [(v0, 13)] [(v2, 13), (v3, 13), (v4, 13), (v5, 13), (v6, 13), (v7, 13)] v1 13 13 rfl rfl hvs
      (by norm_num [List.map_cons, List.map_nil, List.sum_cons, List.sum_nil])
  obtain ⟨A3, S3, hT3, hA3, hS3⟩ :=
    streamT_decomp 13 [(v0, 13), (v1, 13), (v2, 13), (v3, 13), (v4, 13), (v5, 13), (v6, 13), (v7, 13)] [(v0, 13), (v1, 13), (v2, 13)] [(v4, 13), (v5, 13), (v6, 13), (v7, 13)] v3 13 39 rfl rfl hvs
      (by norm_num [List.map_cons, List.map_nil, List.sum_cons, List.sum_nil])
  obtain ⟨A4, S4, hT4, hA4, hS4⟩ :=
    streamT_decomp 13 [(v0, 13), (v1, 13), (v2, 13), (v3, 13), (v4, 13), (v5, 13), (v6, 13), (v7, 13)] [(v0, 13), (v1, 13), (v2, 13), (v3, 13)] [(v5, 13), (v6, 13), (v7, 13)] v4 13 52 rfl rfl hvs
      (by norm_num [List.map_cons, List.map_nil, List.sum_cons, List.sum_nil])
  obtain ⟨A6, S6, hT6, hA6, hS6⟩ :=
    streamT_decomp 13 [(v0, 13), (v1, 13), (v2, 13), (v3, 13), (v4, 13), (v5, 13), (v6, 13), (v7, 13)] [(v0, 13), (v1, 13), (v2, 13), (v3, 13), (v4, 13), (v5, 13)] [(v7, 13)] v6 13 78 rfl rfl hvs
      (by norm_num [List.map_cons, List.map_nil, List.sum_cons, List.sum_nil])
  obtain ⟨A7, S7, hT7, hA7, hS7⟩ :=
    streamT_decomp 13 [(v0, 13), (v1, 13), (v2, 13), (v3, 13), (v4, 13), (v5, 13), (v6, 13), (v7, 13)] [(v0, 13), (v1, 13), (v2, 13), (v3, 13), (v4, 13), (v5, 13), (v6, 13)] [] v7 13 91 rfl rfl hvs
      (by norm_num [List.map_cons, List.map_nil, List.sum_cons, List.sum_nil])
  obtain ⟨B0, R0, hU0, hB0, hR0⟩ :=
    streamT_decomp2 13 [(v0, 13), (v1, 13), (v2, 13), (v3, 13), (v4, 13), (v5, 13), (v6, 13), (v7, 13)] [] [(v2, 13), (v3, 13), (v4, 13), (v5, 13), (v6, 13), (v7, 13)] v0 v1 13 13 0 rfl rfl hvs
      (by norm_num [List.map_cons, List.map_nil, List.sum_cons, List.sum_nil])
  obtain ⟨B1, R1, hU1, hB1, hR1⟩ :=
    streamT_decomp2 13 [(v0, 13), (v1, 13), (v2, 13), (v3, 13), (v4, 13), (v5, 13), (v6, 13), (v7, 13)] [(v0, 13)] [(v3, 13), (v4, 13), (v5, 13), (v6, 13), (v7, 13)] v1 v2 13 13 13 rfl rfl hvs
      (by norm_num [List.map_cons, List.map_nil, List.sum_cons, List.sum_nil])
  obtain ⟨B2, R2, hU2, hB2, hR2⟩ :=
    streamT_decomp2 13 [(v0, 13), (v1, 13), (v2, 13), (v3, 13), (v4, 13), (v5, 13), (v6, 13), (v7, 13)] [(v0, 13), (v1, 13)] [(v4, 13), (v5, 13), (v6, 13), (v7, 13)] v2 v3 13 13 26 rfl rfl hvs
      (by norm_num [List.map_cons, List.map_nil, List.sum_cons, List.sum_nil])
  obtain ⟨B3, R3, hU3, hB3, hR3⟩ :=
    streamT_decomp2 13 [(v0, 13), (v1, 13), (v2, 13), (v3, 13), (v4, 13), (v5, 13), (v6, 13), (v7, 13)] [(v0, 13), (v1, 13), (v2, 13)] [(v5, 13), (v6, 13), (v7, 13)] v3 v4 13 13 39 rfl rfl hvs
      (by norm_num [List.map_cons, List.map_nil, List.sum_cons, List.sum_nil])
  obtain ⟨B4, R4, hU4, hB4, hR4⟩ :=
    streamT_decomp2 13 [(v0, 13), (v1, 13), (v2, 13), (v3, 13), (v4, 13), (v5, 13), (v6, 13), (v7, 13)] [(v0, 13), (v1, 13), (v2, 13), (v3, 13)] [(v6, 13), (v7, 13)] v4 v5 13 13 52 rfl rfl hvs
      (by norm_num [List.map_cons, List.map_nil, List.sum_cons, List.sum_nil])
  obtain ⟨B5, R5, hU5, hB5, hR5⟩ :=
    streamT_decomp2 13 [(v0, 13), (v1, 13), (v2, 13), (v3, 13), (v4, 13), (v5, 13), (v6, 13), (v7, 13)] [(v0, 13), (v1, 13), (v2, 13), (v3, 13), (v4, 13)] [(v7, 13)] v5 v6 13 13 65 rfl rfl hvs
      (by norm_num [List.map_cons, List.map_nil, List.sum_cons, List.sum_nil])
  obtain ⟨B6, R6, hU6, hB6, hR6⟩ :=
    streamT_decomp2 13 [(v0, 13), (v1, 13), (v2, 13), (v3, 13), (v4, 13), (v5, 13), (v6, 13), (v7, 13)] [(v0, 13), (v1, 13), (v2, 13), (v3, 13), (v4, 13), (v5, 13)] [] v6 v7 13 13 78 rfl rfl hvs
      (by norm_num [List.map_cons, List.map_nil, List.sum_cons, List.sum_nil])
  rw [key, key2]
  simp only [List.cons.injEq]
  refine ⟨?_, ?_, ?_, ?_, ?_, ?_, ?_, ?_, ?_, ?_, ?_, ?_, ?_, trivial⟩
  · rw [hT0]
    exact byteSpec_mid 13 A0 v0 S0 (8 * 13 - 0 - 13) 13 0 5 hA0 hS0
      (by norm_num) (by norm_num)
  · rw [hU0]
    exact byteSpec_bnd 13 B0 v0 v1 R0 (8 * 13 - 0 - 13 - 13) 1 5 3 10 31 7 13 hB0 hv0 hv1 hR0
      (by norm_num) (by norm_num) (by norm_num) (by norm_num) (by norm_num)
  · rw [hT1]
    exact byteSpec_mid 13 A1 v1 S1 (8 * 13 - 13 - 13) 13 2 2 hA1 hS1
      (by norm_num) (by norm_num)
  · rw [hU1]
    exact byteSpec_bnd 13 B1 v1 v2 R1 (8 * 13 - 13 - 13 - 13) 3 2 6 7 3 63 13 hB1 hv1 hv2 hR1
      (by norm_num) (by norm_num) (by norm_num) (by norm_num) (by norm_num)
  · rw [hU2]
    exact byteSpec_bnd 13 B2 v2 v3 R2 (8 * 13 - 26 - 13 - 13) 4 7 1 12 127 1 13 hB2 hv2 hv3 hR2
      (by norm_num) (by norm_num) (by norm_num) (by norm_num) (by norm_num)
  · rw [hT3]
    exact byteSpec_mid 13 A3 v3 S3 (8 * 13 - 39 - 13) 13 5 4 hA3 hS3
      (by norm_num) (by norm_num)
  · rw [hU3]
    exact byteSpec_bnd 13 B3 v3 v4 R3 (8 * 13 - 39 - 13 - 13) 6 4 4 9 15 15 13 hB3 hv3 hv4 hR3
      (by norm_num) (by norm_num) (by norm_num) (by norm_num) (by norm_num)
  · rw [hT4]
    exact byteSpec_mid 13 A4 v4 S4 (8 * 13 - 52 - 13) 13 7 1 hA4 hS4
      (by norm_num) (by norm_num)
  · rw [hU4]
    exact byteSpec_bnd 13 B4 v4 v5 R4 (8 * 13 - 52 - 13 - 13) 8 1 7 6 1 127 13 hB4 hv4 hv5 hR4
      (by norm_num) (by norm_num) (by norm_num) (by norm_num) (by norm_num)
  · rw [hU5]
    exact byteSpec_bnd 13 B5 v5 v6 R5 (8 * 13 - 65 - 13 - 13) 9 6 2 11 63 3 13 hB5 hv5 hv6 hR5
      (by norm_num) (by norm_num) (by norm_num) (by norm_num) (by norm_num)
  · rw [hT6]
    exact byteSpec_mid 13 A6 v6 S6 (8 * 13 - 78 - 13) 13 10 3 hA6 hS6
      (by norm_num) (by norm_num)
  · rw [hU6]
    exact byteSpec_bnd 13 B6 v6 v7 R6 (8 * 13 - 78 - 13 - 13) 11 3 5 8 7 31 13 hB6 hv6 hv7 hR6
      (by norm_num) (by norm_num) (by norm_num) (by norm_num) (by norm_num)
  · rw [hT7]
    exact byteSpec_mid0 13 A7 v7 S7 (8 * 13 - 91 - 13) 13 12 hA7 hS7
      (by norm_num) (by norm_num)

set_option maxRecDepth 16000 in
set_option maxHeartbeats 1000000 in
theorem c5_pack_eq_14 (v0 v1 v2 v3 v4 v5 v6 v7 : Nat) (hv0 : v0 < 2 ^ 14) (hv1 : v1 < 2 ^ 14) (hv2 : v2 < 2 ^ 14) (hv3 : v3 < 2 ^ 14) (hv4 : v4 < 2 ^ 14) (hv5 : v5 < 2 ^ 14) (hv6 : v6 < 2 ^ 14) (hv7 : v7 < 2 ^ 14) :
    (packSeq (BitPacker.new (List.replicate 14 0)) [(v0, 14), (v1, 14), (v2, 14), (v3, 14), (v4, 14), (v5, 14), (v6, 14), (v7, 14)]).bytes
      = pack_bits_14 v0 v1 v2 v3 v4 v5 v6 v7 := by
  have hvs : ∀ p ∈ ([(v0, 14), (v1, 14), (v2, 14), (v3, 14), (v4, 14), (v5, 14), (v6, 14), (v7, 14)] : List (Nat × Nat)), p.1 < 2 ^ p.2 := by
    intro p hp
    simp only [List.mem_cons, List.not_mem_nil, or_false] at hp
    rcases hp with rfl | rfl | rfl | rfl | rfl | rfl | rfl | rfl
    exacts [hv0, hv1, hv2, hv3, hv4, hv5, hv6, hv7]
  obtain ⟨-, -, -, ⟨hlen, hbytes⟩, -, -⟩ :=
    packSeq_inv 14 [(v0, 14), (v1, 14), (v2, 14), (v3, 14), (v4, 14), (v5, 14), (v6, 14), (v7, 14)] 0 0 _ hvs
      (by norm_num [List.map_cons, List.map_nil, List.sum_cons, List.sum_nil]) (packInv_init 14)
  have key : (packSeq (BitPacker.new (List.replicate 14 0)) [(v0, 14), (v1, 14), (v2, 14), (v3, 14), (v4, 14), (v5, 14), (v6, 14), (v7, 14)]).bytes
      = [ ByteSpec 14 (streamT 14 [(v0, 14), (v1, 14), (v2, 14), (v3, 14), (v4, 14), (v5, 14), (v6, 14), (v7, 14)] 0 0) 0,
          ByteSpec 14 (streamT 14 [(v0, 14), (v1, 14), (v2, 14), (v3, 14), (v4, 14), (v5, 14), (v6, 14), (v7, 14)] 0 0) 1,
          ByteSpec 14 (streamT 14 [(v0, 14), (v1, 14), (v2, 14), (v3, 14), (v4, 14), (v5, 14), (v6, 14), (v7, 14)] 0 0) 2,
          ByteSpec 14 (streamT 14 [(v0, 14), (v1, 14), (v2, 14), (v3, 14), (v4, 14), (v5, 14), (v6, 14), (v7, 14)] 0 0) 3,
          ByteSpec 14 (streamT 14 [(v0, 14), (v1, 14), (v2, 14), (v3, 14), (v4, 14), (v5, 14), (v6, 14), (v7, 14)] 0 0) 4,
          ByteSpec 14 (streamT 14 [(v0, 14), (v1, 14), (v2, 14), (v3, 14), (v4, 14), (v5, 14), (v6, 14), (v7, 14)] 0 0) 5,
          ByteSpec 14 (streamT 14 [(v0, 14), (v1, 14), (v2, 14), (v3, 14), (v4, 14), (v5, 14), (v6, 14), (v7, 14)] 0 0) 6,
          ByteSpec 14 (streamT 14 [(v0, 14), (v1, 14), (v2, 14), (v3, 14), (v4, 14), (v5, 14), (v6, 14), (v7, 14)] 0 0) 7,
          ByteSpec 14 (streamT 14 [(v0, 14), (v1, 14), (v2, 14), (v3, 14), (v4, 14), (v5, 14), (v6, 14), (v7, 14)] 0 0) 8,
          ByteSpec 14 (streamT 14 [(v0, 14), (v1, 14), (v2, 14), (v3, 14), (v4, 14), (v5, 14), (v6, 14), (v7, 14)] 0 0) 9,
          ByteSpec 14 (streamT 14 [(v0, 14), (v1, 14), (v2, 14), (v3, 14), (v4, 14), (v5, 14), (v6, 14), (v7, 14)] 0 0) 10,
          ByteSpec 14 (streamT 14 [(v0, 14), (v1, 14), (v2, 14), (v3, 14), (v4, 14), (v5, 14), (v6, 14), (v7, 14)] 0 0) 11,
          ByteSpec 14 (streamT 14 [(v0, 14), (v1, 14), (v2, 14), (v3, 14), (v4, 14), (v5, 14), (v6, 14), (v7, 14)] 0 0) 12,
          ByteSpec 14 (streamT 14 [(v0, 14), (v1, 14), (v2, 14), (v3, 14), (v4, 14), (v5, 14), (v6, 14), (v7, 14)] 0 0) 13 ] :=
    (list_eq_map_range_of_getD _ _ 14 hlen hbytes).trans (by rfl)
  have key2 : pack_bits_14 v0 v1 v2 v3 v4 v5 v6 v7
      = [ u8 (((v0 >>> 6) &&& 0xff)),
          u8 (((((v0) &&& 0x3f) <<< 2) ||| ((v1 >>> 12) &&& 0x3))),
          u8 (((v1 >>> 4) &&& 0xff)),
          u8 (((((v1) &&& 0xf) <<< 4) ||| ((v2 >>> 10) &&& 0xf))),
          u8 (((v2 >>> 2) &&& 0xff)),
          u8 (((((v2) &&& 0x3) <<< 6) ||| ((v3 >>> 8) &&& 0x3f))),
          u8 (((v3) &&& 0xff)),
          u8 (((v4 >>> 6) &&& 0xff)),
          u8 (((((v4) &&& 0x3f) <<< 2) ||| ((v5 >>> 12) &&& 0x3))),
          u8 (((v5 >>> 4) &&& 0xff)),
          u8 (((((v5) &&& 0xf) <<< 4) ||| ((v6 >>> 10) &&& 0xf))),
          u8 (((v6 >>> 2) &&& 0xff)),
          u8 (((((v6) &&& 0x3) <<< 6) ||| ((v7 >>> 8) &&& 0x3f))),
          u8 (((v7) &&& 0xff)) ] := rfl
  obtain ⟨A0, S0, hT0, hA0, hS0⟩ :=
    streamT_decomp 14 [(v0, 14), (v1, 14), (v2, 14), (v3, 14), (v4, 14), (v5, 14), (v6, 14), (v7, 14)] [] [(v1, 14), (v2, 14), (v3, 14), (v4, 14), (v5, 14), (v6, 14), (v7, 14)] v0 14 0 rfl rfl hvs
      (by norm_num [List.map_cons, List.map_nil, List.sum_cons, List.sum_nil])
  obtain ⟨A1, S1, hT1, hA1, hS1⟩ :=
    streamT_decomp 14 [(v0, 14), (v1, 14), (v2, 14), (v3, 14), (v4, 14), (v5, 14), (v6, 14), (v7, 14)] [(v0, 14)] [(v2, 14), (v3, 14), (v4, 14), (v5, 14), (v6, 14), (v7, 14)] v1 14 14 rfl rfl hvs
      (by norm_num [List.map_cons, List.map_nil, List.sum_cons, List.sum_nil])
  obtain ⟨A2, S2, hT2, hA2, hS2⟩ :=
    streamT_decomp 14 [(v0, 14), (v1, 14), (v2, 14), (v3, 14), (v4, 14), (v5, 14), (v6, 14), (v7, 14)] [(v0, 14), (v1, 14)] [(v3, 14), (v4, 14), (v5, 14), (v6, 14), (v7, 14)] v2 14 28 rfl rfl hvs
      (by norm_num [List.map_cons, List.map_nil, List.sum_cons, List.sum_nil])
  obtain ⟨A3, S3, hT3, hA3, hS3⟩ :=
    streamT_decomp 14 [(v0, 14), (v1, 14), (v2, 14), (v3, 14), (v4, 14), (v5, 14), (v6, 14), (v7, 14)] [(v0, 14), (v1, 14), (v2, 14)] [(v4, 14), (v5, 14), (v6, 14), (v7, 14)] v3 14 42 rfl rfl hvs
      (by norm_num [List.map_cons, List.map_nil, List.sum_cons, List.sum_nil])
  obtain ⟨A4, S4, hT4, hA4, hS4⟩ :=
    streamT_decomp 14 [(v0, 14), (v1, 14), (v2, 14), (v3, 14), (v4, 14), (v5, 14), (v6, 14), (v7, 14)] [(v0, 14), (v1, 14), (v2, 14), (v3, 14)] [(v5, 14), (v6, 14), (v7, 14)] v4 14 56 rfl rfl hvs
      (by norm_num [List.map_cons, List.map_nil, List.sum_cons, List.sum_nil])
  obtain ⟨A5, S5, hT5, hA5, hS5⟩ :=
    streamT_decomp 14 [(v0, 14), (v1, 14), (v2, 14), (v3, 14), (v4, 14), (v5, 14), (v6, 14), (v7, 14)] [(v0, 14), (v1, 14), (v2, 14), (v3, 14), (v4, 14)] [(v6, 14), (v7, 14)] v5 14 70 rfl rfl hvs
      (by norm_num [List.map_cons, List.map_nil, List.sum_cons, List.sum_nil])
  obtain ⟨A6, S6, hT6, hA6, hS6⟩ :=
    streamT_decomp 14 [(v0, 14), (v1, 14), (v2, 14), (v3, 14), (v4, 14), (v5, 14), (v6, 14), (v7, 14)] [(v0, 14), (v1, 14), (v2, 14), (v3, 14), (v4, 14), (v5, 14)] [(v7, 14)] v6 14 84 rfl rfl hvs
      (by norm_num [List.map_cons, List.map_nil, List.sum_cons, List.sum_nil])
  obtain ⟨A7, S7, hT7, hA7, hS7⟩ :=
    streamT_decomp 14 [(v0, 14), (v1, 14), (v2, 14), (v3, 14), (v4, 14), (v5, 14), (v6, 14), (v7, 14)] [(v0, 14), (v1, 14), (v2, 14), (v3, 14), (v4, 14), (v5, 14), (v6, 14)] [] v7 14 98 rfl rfl hvs
      (by norm_num [List.map_cons, List.map_nil, List.sum_cons, List.sum_nil])
  obtain ⟨B0, R0, hU0, hB0, hR0⟩ :=
    streamT_decomp2 14 [(v0, 14), (v1, 14), (v2, 14), (v3, 14), (v4, 14), (v5, 14), (v6, 14), (v7, 14)] [] [(v2, 14), (v3, 14), (v4, 14), (v5, 14), (v6, 14), (v7, 14)] v0 v1 14 14 0 rfl rfl hvs
      (by norm_num [List.map_cons, List.map_nil, List.sum_cons, List.sum_nil])
  obtain ⟨B1, R1, hU1, hB1, hR1⟩ :=
    streamT_decomp2 14 [(v0, 14), (v1, 14), (v2, 14), (v3, 14), (v4, 14), (v5, 14), (v6, 14), (v7, 14)] [(v0, 14)] [(v3, 14), (v4, 14), (v5, 14), (v6, 14), (v7, 14)] v1 v2 14 14 14 rfl rfl hvs
      (by norm_num [List.map_cons, List.map_nil, List.sum_cons, List.sum_nil])
  obtain ⟨B2, R2, hU2, hB2, hR2⟩ :=
    streamT_decomp2 14 [(v0, 14), (v1, 14), (v2, 14), (v3, 14), (v4, 14), (v5, 14), (v6, 14), (v7, 14)] [(v0, 14), (v1, 14)] [(v4, 14), (v5, 14), (v6, 14), (v7, 14)] v2 v3 14 14 28 rfl rfl hvs
      (by norm_num [List.map_cons, List.map_nil, List.sum_cons, List.sum_nil])
  obtain ⟨B4, R4, hU4, hB4, hR4⟩ :=
    streamT_decomp2 14 [(v0, 14), (v1, 14), (v2, 14), (v3, 14), (v4, 14), (v5, 14), (v6, 14), (v7, 14)] [(v0, 14), (v1, 14), (v2, 14), (v3, 14)] [(v6, 14), (v7, 14)] v4 v5 14 14 56 rfl rfl hvs
      (by norm_num [List.map_cons, List.map_nil, List.sum_cons, List.sum_nil])
  obtain ⟨B5, R5, hU5, hB5, hR5⟩ :=
    streamT_decomp2 14 [(v0, 14), (v1, 14), (v2, 14), (v3, 14), (v4, 14), (v5, 14), (v6, 14), (v7, 14)] [(v0, 14), (v1, 14), (v2, 14), (v3, 14), (v4, 14)] [(v7, 14)] v5 v6 14 14 70 rfl rfl hvs
      (by norm_num [List.map_cons, List.map_nil, List.sum_cons, List.sum_nil])
  obtain ⟨B6, R6, hU6, hB6, hR6⟩ :=
    streamT_decomp2 14 [(v0, 14), (v1, 14), (v2, 14), (v3, 14), (v4, 14), (v5, 14), (v6, 14), (v7, 14)] [(v0, 14), (v1, 14), (v2, 14), (v3, 14), (v4, 14), (v5, 14)] [] v6 v7 14 14 84 rfl rfl hvs
      (by norm_num [List.map_cons, List.map_nil, List.sum_cons, List.sum_nil])
  rw [key, key2]
  simp only [List.cons.injEq]
  refine ⟨?_, ?_, ?_, ?_, ?_, ?_, ?_, ?_, ?_, ?_, ?_, ?_, ?_, ?_, trivial⟩
  · rw [hT0]
    exact byteSpec_mid 14 A0 v0 S0 (8 * 14 - 0 - 14) 14 0 6 hA0 hS0
      (by norm_num) (by norm_num)
  · rw [hU0]
    exact byteSpec_bnd 14 B0 v0 v1 R0 (8 * 14 - 0 - 14 - 14) 1 6 2 12 63 3 14 hB0 hv0 hv1 hR0
      (by norm_num) (by norm_num) (by norm_num) (by norm_num) (by norm_num)
  · rw [hT1]
    exact byteSpec_mid 14 A1 v1 S1 (8 * 14 - 14 - 14) 14 2 4 hA1 hS1
      (by norm_num) (by norm_num)
  · rw [hU1]
    exact byteSpec_bnd 14 B1 v1 v2 R1 (8 * 14 - 14 - 14 - 14) 3 4 4 10 15 15 14 hB1 hv1 hv2 hR1
      (by norm_num) (by norm_num) (by norm_num) (by norm_num) (by norm_num)
  · rw [hT2]
    exact byteSpec_mid 14 A2 v2 S2 (8 * 14 - 28 - 14) 14 4 2 hA2 hS2
      (by norm_num) (by norm_num)
  · rw [hU2]
    exact byteSpec_bnd 14 B2 v2 v3 R2 (8 * 14 - 28 - 14 - 14) 5 2 6 8 3 63 14 hB2 hv2 hv3 hR2
      (by norm_num) (by norm_num) (by norm_num) (by norm_num) (by norm_num)
  · rw [hT3]
    exact byteSpec_mid0 14 A3 v3 S3 (8 * 14 - 42 - 14) 14 6 hA3 hS3
      (by norm_num) (by norm_num)
  · rw [hT4]
    exact byteSpec_mid 14 A4 v4 S4 (8 * 14 - 56 - 14) 14 7 6 hA4 hS4
      (by norm_num) (by norm_num)
  · rw [hU4]
    exact byteSpec_bnd 14 B4 v4 v5 R4 (8 * 14 - 56 - 14 - 14) 8 6 2 12 63 3 14 hB4 hv4 hv5 hR4
      (by norm_num) (by norm_num) (by norm_num) (by norm_num) (by norm_num)
  · rw [hT5]
    exact byteSpec_mid 14 A5 v5 S5 (8 * 14 - 70 - 14) 14 9 4 hA5 hS5
      (by norm_num) (by norm_num)
  · rw [hU5]
    exact byteSpec_bnd 14 B5 v5 v6 R5 (8 * 14 - 70 - 14 - 14) 10 4 4 10 15 15 14 hB5 hv5 hv6 hR5
      (by norm_num) (by norm_num) (by norm_num) (by norm_num) (by norm_num)
  · rw [hT6]
    exact byteSpec_mid 14 A6 v6 S6 (8 * 14 - 84 - 14) 14 11 2 hA6 hS6
      (by norm_num) (by norm_num)
  · rw [hU6]
    exact byteSpec_bnd 14 B6 v6 v7 R6 (8 * 14 - 84 - 14 - 14) 12 2 6 8 3 63 14 hB6 hv6 hv7 hR6
      (by norm_num) (by norm_num) (by norm_num) (by norm_num) (by norm_num)
  · rw [hT7]
    exact byteSpec_mid0 14 A7 v7 S7 (8 * 14 - 98 - 14) 14 13 hA7 hS7
      (by norm_num) (by norm_num)

set_option maxRecDepth 16000 in
set_option maxHeartbeats 1000000 in
theorem c5_pack_eq_15 (v0 v1 v2 v3 v4 v5 v6 v7 : Nat) (hv0 : v0 < 2 ^ 15) (hv1 : v1 < 2 ^ 15) (hv2 : v2 < 2 ^ 15) (hv3 : v3 < 2 ^ 15) (hv4 : v4 < 2 ^ 15) (hv5 : v5 < 2 ^ 15) (hv6 : v6 < 2 ^ 15) (hv7 : v7 < 2 ^ 15) :
    (packSeq (BitPacker.new (List.replicate 15 0)) [(v0, 15), (v1, 15), (v2, 15), (v3, 15), (v4, 15), (v5, 15), (v6, 15), (v7, 15)]).bytes
      = pack_bits_15 v0 v1 v2 v3 v4 v5 v6 v7 := by
  have hvs : ∀ p ∈ ([(v0, 15), (v1, 15), (v2, 15), (v3, 15), (v4, 15), (v5, 15), (v6, 15), (v7, 15)] : List (Nat × Nat)), p.1 < 2 ^ p.2 := by
    intro p hp
    simp only [List.mem_cons, List.not_mem_nil, or_false] at hp
    rcases hp with rfl | rfl | rfl | rfl | rfl | rfl | rfl | rfl
    exacts [hv0, hv1, hv2, hv3, hv4, hv5, hv6, hv7]
  obtain ⟨-, -, -, ⟨hlen, hbytes⟩, -, -⟩ :=
    packSeq_inv 15 [(v0, 15), (v1, 15), (v2, 15), (v3, 15), (v4, 15), (v5, 15), (v6, 15), (v7, 15)] 0 0 _ hvs
      (by norm_num [List.map_cons, List.map_nil, List.sum_cons, List.sum_nil]) (packInv_init 15)
  have key : (packSeq (BitPacker.new (List.replicate 15 0)) [(v0, 15), (v1, 15), (v2, 15), (v3, 15), (v4, 15), (v5, 15), (v6, 15), (v7, 15)]).bytes
      = [ ByteSpec 15 (streamT 15 [(v0, 15), (v1, 15), (v2, 15), (v3, 15), (v4, 15), (v5, 15), (v6, 15), (v7, 15)] 0 0) 0,
          ByteSpec 15 (streamT 15 [(v0, 15), (v1, 15), (v2, 15), (v3, 15), (v4, 15), (v5, 15), (v6, 15), (v7, 15)] 0 0) 1,
          ByteSpec 15 (streamT 15 [(v0, 15), (v1, 15), (v2, 15), (v3, 15), (v4, 15), (v5, 15), (v6, 15), (v7, 15)] 0 0) 2,
          ByteSpec 15 (streamT 15 [(v0, 15), (v1, 15), (v2, 15), (v3, 15), (v4, 15), (v5, 15), (v6, 15), (v7, 15)] 0 0) 3,
          ByteSpec 15 (streamT 15 [(v0, 15), (v1, 15), (v2, 15), (v3, 15), (v4, 15), (v5, 15), (v6, 15), (v7, 15)] 0 0) 4,
          ByteSpec 15 (streamT 15 [(v0, 15), (v1, 15), (v2, 15), (v3, 15), (v4, 15), (v5, 15), (v6, 15), (v7, 15)] 0 0) 5,
          ByteSpec 15 (streamT 15 [(v0, 15), (v1, 15), (v2, 15), (v3, 15), (v4, 15), (v5, 15), (v6, 15), (v7, 15)] 0 0) 6,
          ByteSpec 15 (streamT 15 [(v0, 15), (v1, 15), (v2, 15), (v3, 15), (v4, 15), (v5, 15), (v6, 15), (v7, 15)] 0 0) 7,
          ByteSpec 15 (streamT 15 [(v0, 15), (v1, 15), (v2, 15), (v3, 15), (v4, 15), (v5, 15), (v6, 15), (v7, 15)] 0 0) 8,
          ByteSpec 15 (streamT 15 [(v0, 15), (v1, 15), (v2, 15), (v3, 15), (v4, 15), (v5, 15), (v6, 15), (v7, 15)] 0 0) 9,
          ByteSpec 15 (streamT 15 [(v0, 15), (v1, 15), (v2, 15), (v3, 15), (v4, 15), (v5, 15), (v6, 15), (v7, 15)] 0 0) 10,
          ByteSpec 15 (streamT 15 [(v0, 15), (v1, 15), (v2, 15), (v3, 15), (v4, 15), (v5, 15), (v6, 15), (v7, 15)] 0 0) 11,
          ByteSpec 15 (streamT 15 [(v0, 15), (v1, 15), (v2, 15), (v3, 15), (v4, 15), (v5, 15), (v6, 15), (v7, 15)] 0 0) 12,
          ByteSpec 15 (streamT 15 [(v0, 15), (v1, 15), (v2, 15), (v3, 15), (v4, 15), (v5, 15), (v6, 15), (v7, 15)] 0 0) 13,
          ByteSpec 15 (streamT 15 [(v0, 15), (v1, 15), (v2, 15), (v3, 15), (v4, 15), (v5, 15), (v6, 15), (v7, 15)] 0 0) 14 ] :=
    (list_eq_map_range_of_getD _ _ 15 hlen hbytes).trans (by rfl)
  have key2 : pack_bits_15 v0 v1 v2 v3 v4 v5 v6 v7
      = [ u8 (((v0 >>> 7) &&& 0xff)),
          u8 (((((v0) &&& 0x7f) <<< 1) ||| ((v1 >>> 14) &&& 0x1))),
          u8 (((v1 >>> 6) &&& 0xff)),
          u8 (((((v1) &&& 0x3f) <<< 2) ||| ((v2 >>> 13) &&& 0x3))),
          u8 (((v2 >>> 5) &&& 0xff)),
          u8 (((((v2) &&& 0x1f) <<< 3) ||| ((v3 >>> 12) &&& 0x7))),
          u8 (((v3 >>> 4) &&& 0xff)),
          u8 (((((v3) &&& 0xf) <<< 4) ||| ((v4 >>> 11) &&& 0xf))),
          u8 (((v4 >>> 3) &&& 0xff)),
          u8 (((((v4) &&& 0x7) <<< 5) ||| ((v5 >>> 10) &&& 0x1f))),
          u8 (((v5 >>> 2) &&& 0xff)),
          u8 (((((v5) &&& 0x3) <<< 6) ||| ((v6 >>> 9) &&& 0x3f))),
          u8 (((v6 >>> 1) &&& 0xff)),
          u8 (((((v6) &&& 0x1) <<< 7) ||| ((v7 >>> 8) &&& 0x7f))),
          u8 (((v7) &&& 0xff)) ] := rfl
  obtain ⟨A0, S0, hT0, hA0, hS0⟩ :=
    streamT_decomp 15 [(v0, 15), (v1, 15), (v2, 15), (v3, 15), (v4, 15), (v5, 15), (v6, 15), (v7, 15)] [] [(v1, 15), (v2, 15), (v3, 15), (v4, 15), (v5, 15), (v6, 15), (v7, 15)] v0 15 0 rfl rfl hvs
      (by norm_num [List.map_cons, List.map_nil, List.sum_cons, List.sum_nil])
  obtain ⟨A1, S1, hT1, hA1, hS1⟩ :=
    streamT_decomp 15 [(v0, 15), (v1, 15), (v2, 15), (v3, 15), (v4, 15), (v5, 15), (v6, 15), (v7, 15)] [(v0, 15)] [(v2, 15), (v3, 15), (v4, 15), (v5, 15), (v6, 15), (v7, 15)] v1 15 15 rfl rfl hvs
      (by norm_num [List.map_cons, List.map_nil, List.sum_cons, List.sum_nil])
  obtain ⟨A2, S2, hT2, hA2, hS2⟩ :=
    streamT_decomp 15 [(v0, 15), (v1, 15), (v2, 15), (v3, 15), (v4, 15), (v5, 15), (v6, 15), (v7, 15)] [(v0, 15), (v1, 15)] [(v3, 15), (v4, 15), (v5, 15), (v6, 15), (v7, 15)] v2 15 30 rfl rfl hvs
      (by norm_num [List.map_cons, List.map_nil, List.sum_cons, List.sum_nil])
  obtain ⟨A3, S3, hT3, hA3, hS3⟩ :=
    streamT_decomp 15 [(v0, 15), (v1, 15), (v2, 15), (v3, 15), (v4, 15), (v5, 15), (v6, 15), (v7, 15)] [(v0, 15), (v1, 15), (v2, 15)] [(v4, 15), (v5, 15), (v6, 15), (v7, 15)] v3 15 45 rfl rfl hvs
      (by norm_num [List.map_cons, List.map_nil, List.sum_cons, List.sum_nil])
  obtain ⟨A4, S4, hT4, hA4, hS4⟩ :=
    streamT_decomp 15 [(v0, 15), (v1, 15), (v2, 15), (v3, 15), (v4, 15), (v5, 15), (v6, 15), (v7, 15)] [(v0, 15), (v1, 15), (v2, 15), (v3, 15)] [(v5, 15), (v6, 15), (v7, 15)] v4 15 60 rfl rfl hvs
      (by norm_num [List.map_cons, List.map_nil, List.sum_cons, List.sum_nil])
  obtain ⟨A5, S5, hT5, hA5, hS5⟩ :=
    streamT_decomp 15 [(v0, 15), (v1, 15), (v2, 15), (v3, 15), (v4, 15), (v5, 15), (v6, 15), (v7, 15)] [(v0, 15), (v1, 15), (v2, 15), (v3, 15), (v4, 15)] [(v6, 15), (v7, 15)] v5 15 75 rfl rfl hvs
      (by norm_num [List.map_cons, List.map_nil, List.sum_cons, List.sum_nil])
  obtain ⟨A6, S6, hT6, hA6, hS6⟩ :=
    streamT_decomp 15 [(v0, 15), (v1, 15), (v2, 15), (v3, 15), (v4, 15), (v5, 15), (v6, 15), (v7, 15)] [(v0, 15), (v1, 15), (v2, 15), (v3, 15), (v4, 15), (v5, 15)] [(v7, 15)] v6 15 90 rfl rfl hvs
      (by norm_num [List.map_cons, List.map_nil, List.sum_cons, List.sum_nil])
  obtain ⟨A7, S7, hT7, hA7, hS7⟩ :=
    streamT_decomp 15 [(v0, 15), (v1, 15), (v2, 15), (v3, 15), (v4, 15), (v5, 15), (v6, 15), (v7, 15)] [(v0, 15), (v1, 15), (v2, 15), (v3, 15), (v4, 15), (v5, 15), (v6, 15)] [] v7 15 105 rfl rfl hvs
      (by norm_num [List.map_cons, List.map_nil, List.sum_cons, List.sum_nil])
  obtain ⟨B0, R0, hU0, hB0, hR0⟩ :=
    streamT_decomp2 15 [(v0, 15), (v1, 15), (v2, 15), (v3, 15), (v4, 15), (v5, 15), (v6, 15), (v7, 15)] [] [(v2, 15), (v3, 15), (v4, 15), (v5, 15), (v6, 15), (v7, 15)] v0 v1 15 15 0 rfl rfl hvs
      (by norm_num [List.map_cons, List.map_nil, List.sum_cons, List.sum_nil])
  obtain ⟨B1, R1, hU1, hB1, hR1⟩ :=
    streamT_decomp2 15 [(v0, 15), (v1, 15), (v2, 15), (v3, 15), (v4, 15), (v5, 15), (v6, 15), (v7, 15)] [(v0, 15)] [(v3, 15), (v4, 15), (v5, 15), (v6, 15), (v7, 15)] v1 v2 15 15 15 rfl rfl hvs
      (by norm_num [List.map_cons, List.map_nil, List.sum_cons, List.sum_nil])
  obtain ⟨B2, R2, hU2, hB2, hR2⟩ :=
    streamT_decomp2 15 [(v0, 15), (v1, 15), (v2, 15), (v3, 15), (v4, 15), (v5, 15), (v6, 15), (v7, 15)] [(v0, 15), (v1, 15)] [(v4, 15), (v5, 15), (v6, 15), (v7, 15)] v2 v3 15 15 30 rfl rfl hvs
      (by norm_num [List.map_cons, List.map_nil, List.sum_cons, List.sum_nil])
  obtain ⟨B3, R3, hU3, hB3, hR3⟩ :=
    streamT_decomp2 15 [(v0, 15), (v1, 15), (v2, 15), (v3, 15), (v4, 15), (v5, 15), (v6, 15), (v7, 15)] [(v0, 15), (v1, 15), (v2, 15)] [(v5, 15), (v6, 15), (v7, 15)] v3 v4 15 15 45 rfl rfl hvs
      (by norm_num [List.map_cons, List.map_nil, List.sum_cons, List.sum_nil])
  obtain ⟨B4, R4, hU4, hB4, hR4⟩ :=
    streamT_decomp2 15 [(v0, 15), (v1, 15), (v2, 15), (v3, 15), (v4, 15), (v5, 15), (v6, 15), (v7, 15)] [(v0, 15), (v1, 15), (v2, 15), (v3, 15)] [(v6, 15), (v7, 15)] v4 v5 15 15 60 rfl rfl hvs
      (by norm_num [List.map_cons, List.map_nil, List.sum_cons, List.sum_nil])
  obtain ⟨B5, R5, hU5, hB5, hR5⟩ :=
    streamT_decomp2 15 [(v0, 15), (v1, 15), (v2, 15), (v3, 15), (v4, 15), (v5, 15), (v6, 15), (v7, 15)] [(v0, 15), (v1, 15), (v2, 15), (v3, 15), (v4, 15)] [(v7, 15)] v5 v6 15 15 75 rfl rfl hvs
      (by norm_num [List.map_cons, List.map_nil, List.sum_cons, List.sum_nil])
  obtain ⟨B6, R6, hU6, hB6, hR6⟩ :=
    streamT_decomp2 15 [(v0, 15), (v1, 15), (v2, 15), (v3, 15), (v4, 15), (v5, 15), (v6, 15), (v7, 15)] [(v0, 15), (v1, 15), (v2, 15), (v3, 15), (v4, 15), (v5, 15)] [] v6 v7 15 15 90 rfl rfl hvs
      (by norm_num [List.map_cons, List.map_nil, List.sum_cons, List.sum_nil])
  rw [key, key2]
  simp only [List.cons.injEq]
  refine ⟨?_, ?_, ?_, ?_, ?_, ?_, ?_, ?_, ?_, ?_, ?_, ?_, ?_, ?_, ?_, trivial⟩
  · rw [hT0]
    exact byteSpec_mid 15 A0 v0 S0 (8 * 15 - 0 - 15) 15 0 7 hA0 hS0
      (by norm_num) (by norm_num)
  · rw [hU0]
    exact byteSpec_bnd 15 B0 v0 v1 R0 (8 * 15 - 0 - 15 - 15) 1 7 1 14 127 1 15 hB0 hv0 hv1 hR0
      (by norm_num) (by norm_num) (by norm_num) (by norm_num) (by norm_num)
  · rw [hT1]
    exact byteSpec_mid 15 A1 v1 S1 (8 * 15 - 15 - 15) 15 2 6 hA1 hS1
      (by norm_num) (by norm_num)
  · rw [hU1]
    exact byteSpec_bnd 15 B1 v1 v2 R1 (8 * 15 - 15 - 15 - 15) 3 6 2 13 63 3 15 hB1 hv1 hv2 hR1
      (by norm_num) (by norm_num) (by norm_num) (by norm_num) (by norm_num)
  · rw [hT2]
    exact byteSpec_mid 15 A2 v2 S2 (8 * 15 - 30 - 15) 15 4 5 hA2 hS2
      (by norm_num) (by norm_num)
  · rw [hU2]
    exact byteSpec_bnd 15 B2 v2 v3 R2 (8 * 15 - 30 - 15 - 15) 5 5 3 12 31 7 15 hB2 hv2 hv3 hR2
      (by norm_num) (by norm_num) (by norm_num) (by norm_num) (by norm_num)
  · rw [hT3]
    exact byteSpec_mid 15 A3 v3 S3 (8 * 15 - 45 - 15) 15 6 4 hA3 hS3
      (by norm_num) (by norm_num)
  · rw [hU3]
    exact byteSpec_bnd 15 B3 v3 v4 R3 (8 * 15 - 45 - 15 - 15) 7 4 4 11 15 15 15 hB3 hv3 hv4 hR3
      (by norm_num) (by norm_num) (by norm_num) (by norm_num) (by norm_num)
  · rw [hT4]
    exact byteSpec_mid 15 A4 v4 S4 (8 * 15 - 60 - 15) 15 8 3 hA4 hS4
      (by norm_num) (by norm_num)
  · rw [hU4]
    exact byteSpec_bnd 15 B4 v4 v5 R4 (8 * 15 - 60 - 15 - 15) 9 3 5 10 7 31 15 hB4 hv4 hv5 hR4
      (by norm_num) (by norm_num) (by norm_num) (by norm_num) (by norm_num)
  · rw [hT5]
    exact byteSpec_mid 15 A5 v5 S5 (8 * 15 - 75 - 15) 15 10 2 hA5 hS5
      (by norm_num) (by norm_num)
  · rw [hU5]
    exact byteSpec_bnd 15 B5 v5 v6 R5 (8 * 15 - 75 - 15 - 15) 11 2 6 9 3 63 15 hB5 hv5 hv6 hR5
      (by norm_num) (by norm_num) (by norm_num) (by norm_num) (by norm_num)
  · rw [hT6]
    exact byteSpec_mid 15 A6 v6 S6 (8 * 15 - 90 - 15) 15 12 1 hA6 hS6
      (by norm_num) (by norm_num)
  · rw [hU6]
    exact byteSpec_bnd 15 B6 v6 v7 R6 (8 * 15 - 90 - 15 - 15) 13 1 7 8 1 127 15 hB6 hv6 hv7 hR6
      (by norm_num) (by norm_num) (by norm_num) (by norm_num) (by norm_num)
  · rw [hT7]
    exact byteSpec_mid0 15 A7 v7 S7 (8 * 15 - 105 - 15) 15 14 hA7 hS7
      (by norm_num) (by norm_num)

set_option maxRecDepth 16000 in
set_option maxHeartbeats 1000000 in
theorem c5_pack_eq_16 (v0 v1 v2 v3 v4 v5 v6 v7 : Nat) (hv0 : v0 < 2 ^ 16) (hv1 : v1 < 2 ^ 16) (hv2 : v2 < 2 ^ 16) (hv3 : v3 < 2 ^ 16) (hv4 : v4 < 2 ^ 16) (hv5 : v5 < 2 ^ 16) (hv6 : v6 < 2 ^ 16) (hv7 : v7 < 2 ^ 16) :
    (packSeq (BitPacker.new (List.replicate 16 0)) [(v0, 16), (v1, 16), (v2, 16), (v3, 16), (v4, 16), (v5, 16), (v6, 16), (v7, 16)]).bytes
      = pack_bits_16 v0 v1 v2 v3 v4 v5 v6 v7 := by
  have hvs : ∀ p ∈ ([(v0, 16), (v1, 16), (v2, 16), (v3, 16), (v4, 16), (v5, 16), (v6, 16), (v7, 16)] : List (Nat × Nat)), p.1 < 2 ^ p.2 := by
    intro p hp
    simp only [List.mem_cons, List.not_mem_nil, or_false] at hp
    rcases hp with rfl | rfl | rfl | rfl | rfl | rfl | rfl | rfl
    exacts [hv0, hv1, hv2, hv3, hv4, hv5, hv6, hv7]
  obtain ⟨-, -, -, ⟨hlen, hbytes⟩, -, -⟩ :=
    packSeq_inv 16 [(v0, 16), (v1, 16), (v2, 16), (v3, 16), (v4, 16), (v5, 16), (v6, 16), (v7, 16)] 0 0 _ hvs
      (by norm_num [List.map_cons, List.map_nil, List.sum_cons, List.sum_nil]) (packInv_init 16)
  have key : (packSeq (BitPacker.new (List.replicate 16 0)) [(v0, 16), (v1, 16), (v2, 16), (v3, 16), (v4, 16), (v5, 16), (v6, 16), (v7, 16)]).bytes
      = [ ByteSpec 16 (streamT 16 [(v0, 16), (v1, 16), (v2, 16), (v3, 16), (v4, 16), (v5, 16), (v6, 16), (v7, 16)] 0 0) 0,
          ByteSpec 16 (streamT 16 [(v0, 16), (v1, 16), (v2, 16), (v3, 16), (v4, 16), (v5, 16), (v6, 16), (v7, 16)] 0 0) 1,
          ByteSpec 16 (streamT 16 [(v0, 16), (v1, 16), (v2, 16), (v3, 16), (v4, 16), (v5, 16), (v6, 16), (v7, 16)] 0 0) 2,
          ByteSpec 16 (streamT 16 [(v0, 16), (v1, 16), (v2, 16), (v3, 16), (v4, 16), (v5, 16), (v6, 16), (v7, 16)] 0 0) 3,
          ByteSpec 16 (streamT 16 [(v0, 16), (v1, 16), (v2, 16), (v3, 16), (v4, 16), (v5, 16), (v6, 16), (v7, 16)] 0 0) 4,
          ByteSpec 16 (streamT 16 [(v0, 16), (v1, 16), (v2, 16), (v3, 16), (v4, 16), (v5, 16), (v6, 16), (v7, 16)] 0 0) 5,
          ByteSpec 16 (streamT 16 [(v0, 16), (v1, 16), (v2, 16), (v3, 16), (v4, 16), (v5, 16), (v6, 16), (v7, 16)] 0 0) 6,
          ByteSpec 16 (streamT 16 [(v0, 16), (v1, 16), (v2, 16), (v3, 16), (v4, 16), (v5, 16), (v6, 16), (v7, 16)] 0 0) 7,
          ByteSpec 16 (streamT 16 [(v0, 16), (v1, 16), (v2, 16), (v3, 16), (v4, 16), (v5, 16), (v6, 16), (v7, 16)] 0 0) 8,
          ByteSpec 16 (streamT 16 [(v0, 16), (v1, 16), (v2, 16), (v3, 16), (v4, 16), (v5, 16), (v6, 16), (v7, 16)] 0 0) 9,
          ByteSpec 16 (streamT 16 [(v0, 16), (v1, 16), (v2, 16), (v3, 16), (v4, 16), (v5, 16), (v6, 16), (v7, 16)] 0 0) 10,
          ByteSpec 16 (streamT 16 [(v0, 16), (v1, 16), (v2, 16), (v3, 16), (v4, 16), (v5, 16), (v6, 16), (v7, 16)] 0 0) 11,
          ByteSpec 16 (streamT 16 [(v0, 16), (v1, 16), (v2, 16), (v3, 16), (v4, 16), (v5, 16), (v6, 16), (v7, 16)] 0 0) 12,
          ByteSpec 16 (streamT 16 [(v0, 16), (v1, 16), (v2, 16), (v3, 16), (v4, 16), (v5, 16), (v6, 16), (v7, 16)] 0 0) 13,
          ByteSpec 16 (streamT 16 [(v0, 16), (v1, 16), (v2, 16), (v3, 16), (v4, 16), (v5, 16), (v6, 16), (v7, 16)] 0 0) 14,
          ByteSpec 16 (streamT 16 [(v0, 16), (v1, 16), (v2, 16), (v3, 16), (v4, 16), (v5, 16), (v6, 16), (v7, 16)] 0 0) 15 ] :=
    (list_eq_map_range_of_getD _ _ 16 hlen hbytes).trans (by rfl)
  have key2 : pack_bits_16 v0 v1 v2 v3 v4 v5 v6 v7
      = [ u8 (((v0 >>> 8) &&& 0xff)),
          u8 (((v0) &&& 0xff)),
          u8 (((v1 >>> 8) &&& 0xff)),
          u8 (((v1) &&& 0xff)),
          u8 (((v2 >>> 8) &&& 0xff)),
          u8 (((v2) &&& 0xff)),
          u8 (((v3 >>> 8) &&& 0xff)),
          u8 (((v3) &&& 0xff)),
          u8 (((v4 >>> 8) &&& 0xff)),
          u8 (((v4) &&& 0xff)),
          u8 (((v5 >>> 8) &&& 0xff)),
          u8 (((v5) &&& 0xff)),
          u8 (((v6 >>> 8) &&& 0xff)),
          u8 (((v6) &&& 0xff)),
          u8 (((v7 >>> 8) &&& 0xff)),
          u8 (((v7) &&& 0xff)) ] := rfl
  obtain ⟨A0, S0, hT0, hA0, hS0⟩ :=
    streamT_decomp 16 [(v0, 16), (v1, 16), (v2, 16), (v3, 16), (v4, 16), (v5, 16), (v6, 16), (v7, 16)] [] [(v1, 16), (v2, 16), (v3, 16), (v4, 16), (v5, 16), (v6, 16), (v7, 16)] v0 16 0 rfl rfl hvs
      (by norm_num [List.map_cons, List.map_nil, List.sum_cons, List.sum_nil])
  obtain ⟨A1, S1, hT1, hA1, hS1⟩ :=
    streamT_decomp 16 [(v0, 16), (v1, 16), (v2, 16), (v3, 16), (v4, 16), (v5, 16), (v6, 16), (v7, 16)] [(v0, 16)] [(v2, 16), (v3, 16), (v4, 16), (v5, 16), (v6, 16), (v7, 16)] v1 16 16 rfl rfl hvs
      (by norm_num [List.map_cons, List.map_nil, List.sum_cons, List.sum_nil])
  obtain ⟨A2, S2, hT2, hA2, hS2⟩ :=
    streamT_decomp 16 [(v0, 16), (v1, 16), (v2, 16), (v3, 16), (v4, 16), (v5, 16), (v6, 16), (v7, 16)] [(v0, 16), (v1, 16)] [(v3, 16), (v4, 16), (v5, 16), (v6, 16), (v7, 16)] v2 16 32 rfl rfl hvs
      (by norm_num [List.map_cons, List.map_nil, List.sum_cons, List.sum_nil])
  obtain ⟨A3, S3, hT3, hA3, hS3⟩ :=
    streamT_decomp 16 [(v0, 16), (v1, 16), (v2, 16), (v3, 16), (v4, 16), (v5, 16), (v6, 16), (v7, 16)] [(v0, 16), (v1, 16), (v2, 16)] [(v4, 16), (v5, 16), (v6, 16), (v7, 16)] v3 16 48 rfl rfl hvs
      (by norm_num [List.map_cons, List.map_nil, List.sum_cons, List.sum_nil])
  obtain ⟨A4, S4, hT4, hA4, hS4⟩ :=
    streamT_decomp 16 [(v0, 16), (v1, 16), (v2, 16), (v3, 16), (v4, 16), (v5, 16), (v6, 16), (v7, 16)] [(v0, 16), (v1, 16), (v2, 16), (v3, 16)] [(v5, 16), (v6, 16), (v7, 16)] v4 16 64 rfl rfl hvs
      (by norm_num [List.map_cons, List.map_nil, List.sum_cons, List.sum_nil])
  obtain ⟨A5, S5, hT5, hA5, hS5⟩ :=
    streamT_decomp 16 [(v0, 16), (v1, 16), (v2, 16), (v3, 16), (v4, 16), (v5, 16), (v6, 16), (v7, 16)] [(v0, 16), (v1, 16), (v2, 16), (v3, 16), (v4, 16)] [(v6, 16), (v7, 16)] v5 16 80 rfl rfl hvs
      (by norm_num [List.map_cons, List.map_nil, List.sum_cons, List.sum_nil])
  obtain ⟨A6, S6, hT6, hA6, hS6⟩ :=
    streamT_decomp 16 [(v0, 16), (v1, 16), (v2, 16), (v3, 16), (v4, 16), (v5, 16), (v6, 16), (v7, 16)] [(v0, 16), (v1, 16), (v2, 16), (v3, 16), (v4, 16), (v5, 16)] [(v7, 16)] v6 16 96 rfl rfl hvs
      (by norm_num [List.map_cons, List.map_nil, List.sum_cons, List.sum_nil])
  obtain ⟨A7, S7, hT7, hA7, hS7⟩ :=
    streamT_decomp 16 [(v0, 16), (v1, 16), (v2, 16), (v3, 16), (v4, 16), (v5, 16), (v6, 16), (v7, 16)] [(v0, 16), (v1, 16), (v2, 16), (v3, 16), (v4, 16), (v5, 16), (v6, 16)] [] v7 16 112 rfl rfl hvs
      (by norm_num [List.map_cons, List.map_nil, List.sum_cons, List.sum_nil])
  rw [key, key2]
  simp only [List.cons.injEq]
  refine ⟨?_, ?_, ?_, ?_, ?_, ?_, ?_, ?_, ?_, ?_, ?_, ?_, ?_, ?_, ?_, ?_, trivial⟩
  · rw [hT0]
    exact byteSpec_mid 16 A0 v0 S0 (8 * 16 - 0 - 16) 16 0 8 hA0 hS0
      (by norm_num) (by norm_num)
  · rw [hT0]
    exact byteSpec_mid0 16 A0 v0 S0 (8 * 16 - 0 - 16) 16 1 hA0 hS0
      (by norm_num) (by norm_num)
  · rw [hT1]
    exact byteSpec_mid 16 A1 v1 S1 (8 * 16 - 16 - 16) 16 2 8 hA1 hS1
      (by norm_num) (by norm_num)
  · rw [hT1]
    exact byteSpec_mid0 16 A1 v1 S1 (8 * 16 - 16 - 16) 16 3 hA1 hS1
      (by norm_num) (by norm_num)
  · rw [hT2]
    exact byteSpec_mid 16 A2 v2 S2 (8 * 16 - 32 - 16) 16 4 8 hA2 hS2
      (by norm_num) (by norm_num)
  · rw [hT2]
    exact byteSpec_mid0 16 A2 v2 S2 (8 * 16 - 32 - 16) 16 5 hA2 hS2
      (by norm_num) (by norm_num)
  · rw [hT3]
    exact byteSpec_mid 16 A3 v3 S3 (8 * 16 - 48 - 16) 16 6 8 hA3 hS3
      (by norm_num) (by norm_num)
  · rw [hT3]
    exact byteSpec_mid0 16 A3 v3 S3 (8 * 16 - 48 - 16) 16 7 hA3 hS3
      (by norm_num) (by norm_num)
  · rw [hT4]
    exact byteSpec_mid 16 A4 v4 S4 (8 * 16 - 64 - 16) 16 8 8 hA4 hS4
      (by norm_num) (by norm_num)
  · rw [hT4]
    exact byteSpec_mid0 16 A4 v4 S4 (8 * 16 - 64 - 16) 16 9 hA4 hS4
      (by norm_num) (by norm_num)
  · rw [hT5]
    exact byteSpec_mid 16 A5 v5 S5 (8 * 16 - 80 - 16) 16 10 8 hA5 hS5
      (by norm_num) (by norm_num)
  · rw [hT5]
    exact byteSpec_mid0 16 A5 v5 S5 (8 * 16 - 80 - 16) 16 11 hA5 hS5
      (by norm_num) (by norm_num)
  · rw [hT6]
    exact byteSpec_mid 16 A6 v6 S6 (8 * 16 - 96 - 16) 16 12 8 hA6 hS6
      (by norm_num) (by norm_num)
  · rw [hT6]
    exact byteSpec_mid0 16 A6 v6 S6 (8 * 16 - 96 - 16) 16 13 hA6 hS6
      (by norm_num) (by norm_num)
  · rw [hT7]
    exact byteSpec_mid 16 A7 v7 S7 (8 * 16 - 112 - 16) 16 14 8 hA7 hS7
      (by norm_num) (by norm_num)
  · rw [hT7]
    exact byteSpec_mid0 16 A7 v7 S7 (8 * 16 - 112 - 16) 16 15 hA7 hS7
      (by norm_num) (by norm_num)

set_option maxRecDepth 16000 in
set_option maxHeartbeats 1000000 in
theorem c5_pack_eq_17 (v0 v1 v2 v3 v4 v5 v6 v7 : Nat) (hv0 : v0 < 2 ^ 17) (hv1 : v1 < 2 ^ 17) (hv2 : v2 < 2 ^ 17) (hv3 : v3 < 2 ^ 17) (hv4 : v4 < 2 ^ 17) (hv5 : v5 < 2 ^ 17) (hv6 : v6 < 2 ^ 17) (hv7 : v7 < 2 ^ 17) :
    (packSeq (BitPacker.new (List.replicate 17 0)) [(v0, 17), (v1, 17), (v2, 17), (v3, 17), (v4, 17), (v5, 17), (v6, 17), (v7, 17)]).bytes
      = pack_bits_17 v0 v1 v2 v3 v4 v5 v6 v7 := by
  have hvs : ∀ p ∈ ([(v0, 17), (v1, 17), (v2, 17), (v3, 17), (v4, 17), (v5, 17), (v6, 17), (v7, 17)] : List (Nat × Nat)), p.1 < 2 ^ p.2 := by
    intro p hp
    simp only [List.mem_cons, List.not_mem_nil, or_false] at hp
    rcases hp with rfl | rfl | rfl | rfl | rfl | rfl | rfl | rfl
    exacts [hv0, hv1, hv2, hv3, hv4, hv5, hv6, hv7]
  obtain ⟨-, -, -, ⟨hlen, hbytes⟩, -, -⟩ :=
    packSeq_inv 17 [(v0, 17), (v1, 17), (v2, 17), (v3, 17), (v4, 17), (v5, 17), (v6, 17), (v7, 17)] 0 0 _ hvs
      (by norm_num [List.map_cons, List.map_nil, List.sum_cons, List.sum_nil]) (packInv_init 17)
  have key : (packSeq (BitPacker.new (List.replicate 17 0)) [(v0, 17), (v1, 17), (v2, 17), (v3, 17), (v4, 17), (v5, 17), (v6, 17), (v7, 17)]).bytes
      = [ ByteSpec 17 (streamT 17 [(v0, 17), (v1, 17), (v2, 17), (v3, 17), (v4, 17), (v5, 17), (v6, 17), (v7, 17)] 0 0) 0,
          ByteSpec 17 (streamT 17 [(v0, 17), (v1, 17), (v2, 17), (v3, 17), (v4, 17), (v5, 17), (v6, 17), (v7, 17)] 0 0) 1,
          ByteSpec 17 (streamT 17 [(v0, 17), (v1, 17), (v2, 17), (v3, 17), (v4, 17), (v5, 17), (v6, 17), (v7, 17)] 0 0) 2,
          ByteSpec 17 (streamT 17 [(v0, 17), (v1, 17), (v2, 17), (v3, 17), (v4, 17), (v5, 17), (v6, 17), (v7, 17)] 0 0) 3,
          ByteSpec 17 (streamT 17 [(v0, 17), (v1, 17), (v2, 17), (v3, 17), (v4, 17), (v5, 17), (v6, 17), (v7, 17)] 0 0) 4,
          ByteSpec 17 (streamT 17 [(v0, 17), (v1, 17), (v2, 17), (v3, 17), (v4, 17), (v5, 17), (v6, 17), (v7, 17)] 0 0) 5,
          ByteSpec 17 (streamT 17 [(v0, 17), (v1, 17), (v2, 17), (v3, 17), (v4, 17), (v5, 17), (v6, 17), (v7, 17)] 0 0) 6,
          ByteSpec 17 (streamT 17 [(v0, 17), (v1, 17), (v2, 17), (v3, 17), (v4, 17), (v5, 17), (v6, 17), (v7, 17)] 0 0) 7,
          ByteSpec 17 (streamT 17 [(v0, 17), (v1, 17), (v2, 17), (v3, 17), (v4, 17), (v5, 17), (v6, 17), (v7, 17)] 0 0) 8,
          ByteSpec 17 (streamT 17 [(v0, 17), (v1, 17), (v2, 17), (v3, 17), (v4, 17), (v5, 17), (v6, 17), (v7, 17)] 0 0) 9,
          ByteSpec 17 (streamT 17 [(v0, 17), (v1, 17), (v2, 17), (v3, 17), (v4, 17), (v5, 17), (v6, 17), (v7, 17)] 0 0) 10,
          ByteSpec 17 (streamT 17 [(v0, 17), (v1, 17), (v2, 17), (v3, 17), (v4, 17), (v5, 17), (v6, 17), (v7, 17)] 0 0) 11,
          ByteSpec 17 (streamT 17 [(v0, 17), (v1, 17), (v2, 17), (v3, 17), (v4, 17), (v5, 17), (v6, 17), (v7, 17)] 0 0) 12,
          ByteSpec 17 (streamT 17 [(v0, 17), (v1, 17), (v2, 17), (v3, 17), (v4, 17), (v5, 17), (v6, 17), (v7, 17)] 0 0) 13,
          ByteSpec 17 (streamT 17 [(v0, 17), (v1, 17), (v2, 17), (v3, 17), (v4, 17), (v5, 17), (v6, 17), (v7, 17)] 0 0) 14,
          ByteSpec 17 (streamT 17 [(v0, 17), (v1, 17), (v2, 17), (v3, 17), (v4, 17), (v5, 17), (v6, 17), (v7, 17)] 0 0) 15,
          ByteSpec 17 (streamT 17 [(v0, 17), (v1, 17), (v2, 17), (v3, 17), (v4, 17), (v5, 17), (v6, 17), (v7, 17)] 0 0) 16 ] :=
    (list_eq_map_range_of_getD _ _ 17 hlen hbytes).trans (by rfl)
  have key2 : pack_bits_17 v0 v1 v2 v3 v4 v5 v6 v7
      = [ u8 (((v0 >>> 9) &&& 0xff)),
          u8 (((v0 >>> 1) &&& 0xff)),
          u8 (((((v0) &&& 0x1) <<< 7) ||| ((v1 >>> 10) &&& 0x7f))),
          u8 (((v1 >>> 2) &&& 0xff)),
          u8 (((((v1) &&& 0x3) <<< 6) ||| ((v2 >>> 11) &&& 0x3f))),
          u8 (((v2 >>> 3) &&& 0xff)),
          u8 (((((v2) &&& 0x7) <<< 5) ||| ((v3 >>> 12) &&& 0x1f))),
          u8 (((v3 >>> 4) &&& 0xff)),
          u8 (((((v3) &&& 0xf) <<< 4) ||| ((v4 >>> 13) &&& 0xf))),
          u8 (((v4 >>> 5) &&& 0xff)),
          u8 (((((v4) &&& 0x1f) <<< 3) ||| ((v5 >>> 14) &&& 0x7))),
          u8 (((v5 >>> 6) &&& 0xff)),
          u8 (((((v5) &&& 0x3f) <<< 2) ||| ((v6 >>> 15) &&& 0x3))),
          u8 (((v6 >>> 7) &&& 0xff)),
          u8 (((((v6) &&& 0x7f) <<< 1) ||| ((v7 >>> 16) &&& 0x1))),
          u8 (((v7 >>> 8) &&& 0xff)),
          u8 (((v7) &&& 0xff)) ] := rfl
  obtain ⟨A0, S0, hT0, hA0, hS0⟩ :=
    streamT_decomp 17 [(v0, 17), (v1, 17), (v2, 17), (v3, 17), (v4, 17), (v5, 17), (v6, 17), (v7, 17)] [] [(v1, 17), (v2, 17), (v3, 17), (v4, 17), (v5, 17), (v6, 17), (v7, 17)] v0 17 0 rfl rfl hvs
      (by norm_num [List.map_cons, List.map_nil, List.sum_cons, List.sum_nil])
  obtain ⟨A1, S1, hT1, hA1, hS1⟩ :=
    streamT_decomp 17 [(v0, 17), (v1, 17), (v2, 17), (v3, 17), (v4, 17), (v5, 17), (v6, 17), (v7, 17)] [(v0, 17)] [(v2, 17), (v3, 17), (v4, 17), (v5, 17), (v6, 17), (v7, 17)] v1 17 17 rfl rfl hvs
      (by norm_num [List.map_cons, List.map_nil, List.sum_cons, List.sum_nil])
  obtain ⟨A2, S2, hT2, hA2, hS2⟩ :=
    streamT_decomp 17 [(v0, 17), (v1, 17), (v2, 17), (v3, 17), (v4, 17), (v5, 17), (v6, 17), (v7, 17)] [(v0, 17), (v1, 17)] [(v3, 17), (v4, 17), (v5, 17), (v6, 17), (v7, 17)] v2 17 34 rfl rfl hvs
      (by norm_num [List.map_cons, List.map_nil, List.sum_cons, List.sum_nil])
  obtain ⟨A3, S3, hT3, hA3, hS3⟩ :=
    streamT_decomp 17 [(v0, 17), (v1, 17), (v2, 17), (v3, 17), (v4, 17), (v5, 17), (v6, 17), (v7, 17)] [(v0, 17), (v1, 17), (v2, 17)] [(v4, 17), (v5, 17), (v6, 17), (v7, 17)] v3 17 51 rfl rfl hvs
      (by norm_num [List.map_cons, List.map_nil, List.sum_cons, List.sum_nil])
  obtain ⟨A4, S4, hT4, hA4, hS4⟩ :=
    streamT_decomp 17 [(v0, 17), (v1, 17), (v2, 17), (v3, 17), (v4, 17), (v5, 17), (v6, 17), (v7, 17)] [(v0, 17), (v1, 17), (v2, 17), (v3, 17)] [(v5, 17), (v6, 17), (v7, 17)] v4 17 68 rfl rfl hvs
      (by norm_num [List.map_cons, List.map_nil, List.sum_cons, List.sum_nil])
  obtain ⟨A5, S5, hT5, hA5, hS5⟩ :=
    streamT_decomp 17 [(v0, 17), (v1, 17), (v2, 17), (v3, 17), (v4, 17), (v5, 17), (v6, 17), (v7, 17)] [(v0, 17), (v1, 17), (v2, 17), (v3, 17), (v4, 17)] [(v6, 17), (v7, 17)] v5 17 85 rfl rfl hvs
      (by norm_num [List.map_cons, List.map_nil, List.sum_cons, List.sum_nil])
  obtain ⟨A6, S6, hT6, hA6, hS6⟩ :=
    streamT_decomp 17 [(v0, 17), (v1, 17), (v2, 17), (v3, 17), (v4, 17), (v5, 17), (v6, 17), (v7, 17)] [(v0, 17), (v1, 17), (v2, 17), (v3, 17), (v4, 17), (v5, 17)] [(v7, 17)] v6 17 102 rfl rfl hvs
      (by norm_num [List.map_cons, List.map_nil, List.sum_cons, List.sum_nil])
  obtain ⟨A7, S7, hT7, hA7, hS7⟩ :=
    streamT_decomp 17 [(v0, 17), (v1, 17), (v2, 17), (v3, 17), (v4, 17), (v5, 17), (v6, 17), (v7, 17)] [(v0, 17), (v1, 17), (v2, 17), (v3, 17), (v4, 17), (v5, 17), (v6, 17)] [] v7 17 119 rfl rfl hvs
      (by norm_num [List.map_cons, List.map_nil, List.sum_cons, List.sum_nil])
  obtain ⟨B0, R0, hU0, hB0, hR0⟩ :=
    streamT_decomp2 17 [(v0, 17), (v1, 17), (v2, 17), (v3, 17), (v4, 17), (v5, 17), (v6, 17), (v7, 17)] [] [(v2, 17), (v3, 17), (v4, 17), (v5, 17), (v6, 17), (v7, 17)] v0 v1 17 17 0 rfl rfl hvs
      (by norm_num [List.map_cons, List.map_nil, List.sum_cons, List.sum_nil])
  obtain ⟨B1, R1, hU1, hB1, hR1⟩ :=
    streamT_decomp2 17 [(v0, 17), (v1, 17), (v2, 17), (v3, 17), (v4, 17), (v5, 17), (v6, 17), (v7, 17)] [(v0, 17)] [(v3, 17), (v4, 17), (v5, 17), (v6, 17), (v7, 17)] v1 v2 17 17 17 rfl rfl hvs
      (by norm_num [List.map_cons, List.map_nil, List.sum_cons, List.sum_nil])
  obtain ⟨B2, R2, hU2, hB2, hR2⟩ :=
    streamT_decomp2 17 [(v0, 17), (v1, 17), (v2, 17), (v3, 17), (v4, 17), (v5, 17), (v6, 17), (v7, 17)] [(v0, 17), (v1, 17)] [(v4, 17), (v5, 17), (v6, 17), (v7, 17)] v2 v3 17 17 34 rfl rfl hvs
      (by norm_num [List.map_cons, List.map_nil, List.sum_cons, List.sum_nil])
  obtain ⟨B3, R3, hU3, hB3, hR3⟩ :=
    streamT_decomp2 17 [(v0, 17), (v1, 17), (v2, 17), (v3, 17), (v4, 17), (v5, 17), (v6, 17), (v7, 17)] [(v0, 17), (v1, 17), (v2, 17)] [(v5, 17), (v6, 17), (v7, 17)] v3 v4 17 17 51 rfl rfl hvs
      (by norm_num [List.map_cons, List.map_nil, List.sum_cons, List.sum_nil])
  obtain ⟨B4, R4, hU4, hB4, hR4⟩ :=
    streamT_decomp2 17 [(v0, 17), (v1, 17), (v2, 17), (v3, 17), (v4, 17), (v5, 17), (v6, 17), (v7, 17)] [(v0, 17), (v1, 17), (v2, 17), (v3, 17)] [(v6, 17), (v7, 17)] v4 v5 17 17 68 rfl rfl hvs
      (by norm_num [List.map_cons, List.map_nil, List.sum_cons, List.sum_nil])
  obtain ⟨B5, R5, hU5, hB5, hR5⟩ :=
    streamT_decomp2 17 [(v0, 17), (v1, 17), (v2, 17), (v3, 17), (v4, 17), (v5, 17), (v6, 17), (v7, 17)] [(v0, 17), (v1, 17), (v2, 17), (v3, 17), (v4, 17)] [(v7, 17)] v5 v6 17 17 85 rfl rfl hvs
      (by norm_num [List.map_cons, List.map_nil, List.sum_cons, List.sum_nil])
  obtain ⟨B6, R6, hU6, hB6, hR6⟩ :=
    streamT_decomp2 17 [(v0, 17), (v1, 17), (v2, 17), (v3, 17), (v4, 17), (v5, 17), (v6, 17), (v7, 17)] [(v0, 17), (v1, 17), (v2, 17), (v3, 17), (v4, 17), (v5, 17)] [] v6 v7 17 17 102 rfl rfl hvs
      (by norm_num [List.map_cons, List.map_nil, List.sum_cons, List.sum_nil])
  rw [key, key2]
  simp only [List.cons.injEq]
  refine ⟨?_, ?_, ?_, ?_, ?_, ?_, ?_, ?_, ?_, ?_, ?_, ?_, ?_, ?_, ?_, ?_, ?_, trivial⟩
  · rw [hT0]
    exact byteSpec_mid 17 A0 v0 S0 (8 * 17 - 0 - 17) 17 0 9 hA0 hS0
      (by norm_num) (by norm_num)
  · rw [hT0]
    exact byteSpec_mid 17 A0 v0 S0 (8 * 17 - 0 - 17) 17 1 1 hA0 hS0
      (by norm_num) (by norm_num)
  · rw [hU0]
    exact byteSpec_bnd 17 B0 v0 v1 R0 (8 * 17 - 0 - 17 - 17) 2 1 7 10 1 127 17 hB0 hv0 hv1 hR0
      (by norm_num) (by norm_num) (by norm_num) (by norm_num) (by norm_num)
  · rw [hT1]
    exact byteSpec_mid 17 A1 v1 S1 (8 * 17 - 17 - 17) 17 3 2 hA1 hS1
      (by norm_num) (by norm_num)
  · rw [hU1]
    exact byteSpec_bnd 17 B1 v1 v2 R1 (8 * 17 - 17 - 17 - 17) 4 2 6 11 3 63 17 hB1 hv1 hv2 hR1
      (by norm_num) (by norm_num) (by norm_num) (by norm_num) (by norm_num)
  · rw [hT2]
    exact byteSpec_mid 17 A2 v2 S2 (8 * 17 - 34 - 17) 17 5 3 hA2 hS2
      (by norm_num) (by norm_num)
  · rw [hU2]
    exact byteSpec_bnd 17 B2 v2 v3 R2 (8 * 17 - 34 - 17 - 17) 6 3 5 12 7 31 17 hB2 hv2 hv3 hR2
      (by norm_num) (by norm_num) (by norm_num) (by norm_num) (by norm_num)
  · rw [hT3]
    exact byteSpec_mid 17 A3 v3 S3 (8 * 17 - 51 - 17) 17 7 4 hA3 hS3
      (by norm_num) (by norm_num)
  · rw [hU3]
    exact byteSpec_bnd 17 B3 v3 v4 R3 (8 * 17 - 51 - 17 - 17) 8 4 4 13 15 15 17 hB3 hv3 hv4 hR3
      (by norm_num) (by norm_num) (by norm_num) (by norm_num) (by norm_num)
  · rw [hT4]
    exact byteSpec_mid 17 A4 v4 S4 (8 * 17 - 68 - 17) 17 9 5 hA4 hS4
      (by norm_num) (by norm_num)
  · rw [hU4]
    exact byteSpec_bnd 17 B4 v4 v5 R4 (8 * 17 - 68 - 17 - 17) 10 5 3 14 31 7 17 hB4 hv4 hv5 hR4
      (by norm_num) (by norm_num) (by norm_num) (by norm_num) (by norm_num)
  · rw [hT5]
    exact byteSpec_mid 17 A5 v5 S5 (8 * 17 - 85 - 17) 17 11 6 hA5 hS5
      (by norm_num) (by norm_num)
  · rw [hU5]
    exact byteSpec_bnd 17 B5 v5 v6 R5 (8 * 17 - 85 - 17 - 17) 12 6 2 15 63 3 17 hB5 hv5 hv6 hR5
      (by norm_num) (by norm_num) (by norm_num) (by norm_num) (by norm_num)
  · rw [hT6]
    exact byteSpec_mid 17 A6 v6 S6 (8 * 17 - 102 - 17) 17 13 7 hA6 hS6
      (by norm_num) (by norm_num)
  · rw [hU6]
    exact byteSpec_bnd 17 B6 v6 v7 R6 (8 * 17 - 102 - 17 - 17) 14 7 1 16 127 1 17 hB6 hv6 hv7 hR6
      (by norm_num) (by norm_num) (by norm_num) (by norm_num) (by norm_num)
  · rw [hT7]
    exact byteSpec_mid 17 A7 v7 S7 (8 * 17 - 119 - 17) 17 15 8 hA7 hS7
      (by norm_num) (by norm_num)
  · rw [hT7]
    exact byteSpec_mid0 17 A7 v7 S7 (8 * 17 - 119 - 17) 17 16 hA7 hS7
      (by norm_num) (by norm_num)

set_option maxRecDepth 16000 in
set_option maxHeartbeats 1000000 in
theorem c5_pack_eq_18 (v0 v1 v2 v3 v4 v5 v6 v7 : Nat) (hv0 : v0 < 2 ^ 18) (hv1 : v1 < 2 ^ 18) (hv2 : v2 < 2 ^ 18) (hv3 : v3 < 2 ^ 18) (hv4 : v4 < 2 ^ 18) (hv5 : v5 < 2 ^ 18) (hv6 : v6 < 2 ^ 18) (hv7 : v7 < 2 ^ 18) :
    (packSeq (BitPacker.new (List.replicate 18 0)) [(v0, 18), (v1, 18), (v2, 18), (v3, 18), (v4, 18), (v5, 18), (v6, 18), (v7, 18)]).bytes
      = pack_bits_18 v0 v1 v2 v3 v4 v5 v6 v7 := by
  have hvs : ∀ p ∈ ([(v0, 18), (v1, 18), (v2, 18), (v3, 18), (v4, 18), (v5, 18), (v6, 18), (v7, 18)] : List (Nat × Nat)), p.1 < 2 ^ p.2 := by
    intro p hp
    simp only [List.mem_cons, List.not_mem_nil, or_false] at hp
    rcases hp with rfl | rfl | rfl | rfl | rfl | rfl | rfl | rfl
    exacts [hv0, hv1, hv2, hv3, hv4, hv5, hv6, hv7]
  obtain ⟨-, -, -, ⟨hlen, hbytes⟩, -, -⟩ :=
    packSeq_inv 18 [(v0, 18), (v1, 18), (v2, 18), (v3, 18), (v4, 18), (v5, 18), (v6, 18), (v7, 18)] 0 0 _ hvs
      (by norm_num [List.map_cons, List.map_nil, List.sum_cons, List.sum_nil]) (packInv_init 18)
  have key : (packSeq (BitPacker.new (List.replicate 18 0)) [(v0, 18), (v1, 18), (v2, 18), (v3, 18), (v4, 18), (v5, 18), (v6, 18), (v7, 18)]).bytes
      = [ ByteSpec 18 (streamT 18 [(v0, 18), (v1, 18), (v2, 18), (v3, 18), (v4, 18), (v5, 18), (v6, 18), (v7, 18)] 0 0) 0,
          ByteSpec 18 (streamT 18 [(v0, 18), (v1, 18), (v2, 18), (v3, 18), (v4, 18), (v5, 18), (v6, 18), (v7, 18)] 0 0) 1,
          ByteSpec 18 (streamT 18 [(v0, 18), (v1, 18), (v2, 18), (v3, 18), (v4, 18), (v5, 18), (v6, 18), (v7, 18)] 0 0) 2,
          ByteSpec 18 (streamT 18 [(v0, 18), (v1, 18), (v2, 18), (v3, 18), (v4, 18), (v5, 18), (v6, 18), (v7, 18)] 0 0) 3,
          ByteSpec 18 (streamT 18 [(v0, 18), (v1, 18), (v2, 18), (v3, 18), (v4, 18), (v5, 18), (v6, 18), (v7, 18)] 0 0) 4,
          ByteSpec 18 (streamT 18 [(v0, 18), (v1, 18), (v2, 18), (v3, 18), (v4, 18), (v5, 18), (v6, 18), (v7, 18)] 0 0) 5,
          ByteSpec 18 (streamT 18 [(v0, 18), (v1, 18), (v2, 18), (v3, 18), (v4, 18), (v5, 18), (v6, 18), (v7, 18)] 0 0) 6,
          ByteSpec 18 (streamT 18 [(v0, 18), (v1, 18), (v2, 18), (v3, 18), (v4, 18), (v5, 18), (v6, 18), (v7, 18)] 0 0) 7,
          ByteSpec 18 (streamT 18 [(v0, 18), (v1, 18), (v2, 18), (v3, 18), (v4, 18), (v5, 18), (v6, 18), (v7, 18)] 0 0) 8,
          ByteSpec 18 (streamT 18 [(v0, 18), (v1, 18), (v2, 18), (v3, 18), (v4, 18), (v5, 18), (v6, 18), (v7, 18)] 0 0) 9,
          ByteSpec 18 (streamT 18 [(v0, 18), (v1, 18), (v2, 18), (v3, 18), (v4, 18), (v5, 18), (v6, 18), (v7, 18)] 0 0) 10,
          ByteSpec 18 (streamT 18 [(v0, 18), (v1, 18), (v2, 18), (v3, 18), (v4, 18), (v5, 18), (v6, 18), (v7, 18)] 0 0) 11,
          ByteSpec 18 (streamT 18 [(v0, 18), (v1, 18), (v2, 18), (v3, 18), (v4, 18), (v5, 18), (v6, 18), (v7, 18)] 0 0) 12,
          ByteSpec 18 (streamT 18 [(v0, 18), (v1, 18), (v2, 18), (v3, 18), (v4, 18), (v5, 18), (v6, 18), (v7, 18)] 0 0) 13,
          ByteSpec 18 (streamT 18 [(v0, 18), (v1, 18), (v2, 18), (v3, 18), (v4, 18), (v5, 18), (v6, 18), (v7, 18)] 0 0) 14,
          ByteSpec 18 (streamT 18 [(v0, 18), (v1, 18), (v2, 18), (v3, 18), (v4, 18), (v5, 18), (v6, 18), (v7, 18)] 0 0) 15,
          ByteSpec 18 (streamT 18 [(v0, 18), (v1, 18), (v2, 18), (v3, 18), (v4, 18), (v5, 18), (v6, 18), (v7, 18)] 0 0) 16,
          ByteSpec 18 (streamT 18 [(v0, 18), (v1, 18), (v2, 18), (v3, 18), (v4, 18), (v5, 18), (v6, 18), (v7, 18)] 0 0) 17 ] :=
    (list_eq_map_range_of_getD _ _ 18 hlen hbytes).trans (by rfl)
  have key2 : pack_bits_18 v0 v1 v2 v3 v4 v5 v6 v7
      = [ u8 (((v0 >>> 10) &&& 0xff)),
          u8 (((v0 >>> 2) &&& 0xff)),
          u8 (((((v0) &&& 0x3) <<< 6) ||| ((v1 >>> 12) &&& 0x3f))),
          u8 (((v1 >>> 4) &&& 0xff)),
          u8 (((((v1) &&& 0xf) <<< 4) ||| ((v2 >>> 14) &&& 0xf))),
          u8 (((v2 >>> 6) &&& 0xff)),
          u8 (((((v2) &&& 0x3f) <<< 2) ||| ((v3 >>> 16) &&& 0x3))),
          u8 (((v3 >>> 8) &&& 0xff)),
          u8 (((v3) &&& 0xff)),
          u8 (((v4 >>> 10) &&& 0xff)),
          u8 (((v4 >>> 2) &&& 0xff)),
          u8 (((((v4) &&& 0x3) <<< 6) ||| ((v5 >>> 12) &&& 0x3f))),
          u8 (((v5 >>> 4) &&& 0xff)),
          u8 (((((v5) &&& 0xf) <<< 4) ||| ((v6 >>> 14) &&& 0xf))),
          u8 (((v6 >>> 6) &&& 0xff)),
          u8 (((((v6) &&& 0x3f) <<< 2) ||| ((v7 >>> 16) &&& 0x3))),
          u8 (((v7 >>> 8) &&& 0xff)),
          u8 (((v7) &&& 0xff)) ] := rfl
  obtain ⟨A0, S0, hT0, hA0, hS0⟩ :=
    streamT_decomp 18 [(v0, 18), (v1, 18), (v2, 18), (v3, 18), (v4, 18), (v5, 18), (v6, 18), (v7, 18)] [] [(v1, 18), (v2, 18), (v3, 18), (v4, 18), (v5, 18), (v6, 18), (v7, 18)] v0 18 0 rfl rfl hvs
      (by norm_num [List.map_cons, List.map_nil, List.sum_cons, List.sum_nil])
  obtain ⟨A1, S1, hT1, hA1, hS1⟩ :=
    streamT_decomp 18 [(v0, 18), (v1, 18), (v2, 18), (v3, 18), (v4, 18), (v5, 18), (v6, 18), (v7, 18)] [(v0, 18)] [(v2, 18), (v3, 18), (v4, 18), (v5, 18), (v6, 18), (v7, 18)] v1 18 18 rfl rfl hvs
      (by norm_num [List.map_cons, List.map_nil, List.sum_cons, List.sum_nil])
  obtain ⟨A2, S2, hT2, hA2, hS2⟩ :=
    streamT_decomp 18 [(v0, 18), (v1, 18), (v2, 18), (v3, 18), (v4, 18), (v5, 18), (v6, 18), (v7, 18)] [(v0, 18), (v1, 18)] [(v3, 18), (v4, 18), (v5, 18), (v6, 18), (v7, 18)] v2 18 36 rfl rfl hvs
      (by norm_num [List.map_cons, List.map_nil, List.sum_cons, List.sum_nil])
  obtain ⟨A3, S3, hT3, hA3, hS3⟩ :=
    streamT_decomp 18 [(v0, 18), (v1, 18), (v2, 18), (v3, 18), (v4, 18), (v5, 18), (v6, 18), (v7, 18)] [(v0, 18), (v1, 18), (v2, 18)] [(v4, 18), (v5, 18), (v6, 18), (v7, 18)] v3 18 54 rfl rfl hvs
      (by norm_num [List.map_cons, List.map_nil, List.sum_cons, List.sum_nil])
  obtain ⟨A4, S4, hT4, hA4, hS4⟩ :=
    streamT_decomp 18 [(v0, 18), (v1, 18), (v2, 18), (v3, 18), (v4, 18), (v5, 18), (v6, 18), (v7, 18)] [(v0, 18), (v1, 18), (v2, 18), (v3, 18)] [(v5, 18), (v6, 18), (v7, 18)] v4 18 72 rfl rfl hvs
      (by norm_num [List.map_cons, List.map_nil, List.sum_cons, List.sum_nil])
  obtain ⟨A5, S5, hT5, hA5, hS5⟩ :=
    streamT_decomp 18 [(v0, 18), (v1, 18), (v2, 18), (v3, 18), (v4, 18), (v5, 18), (v6, 18), (v7, 18)] [(v0, 18), (v1, 18), (v2, 18), (v3, 18), (v4, 18)] [(v6, 18), (v7, 18)] v5 18 90 rfl rfl hvs
      (by norm_num [List.map_cons, List.map_nil, List.sum_cons, List.sum_nil])
  obtain ⟨A6, S6, hT6, hA6, hS6⟩ :=
    streamT_decomp 18 [(v0, 18), (v1, 18), (v2, 18), (v3, 18), (v4, 18), (v5, 18), (v6, 18), (v7, 18)] [(v0, 18), (v1, 18), (v2, 18), (v3, 18), (v4, 18), (v5, 18)] [(v7, 18)] v6 18 108 rfl rfl hvs
      (by norm_num [List.map_cons, List.map_nil, List.sum_cons, List.sum_nil])
  obtain ⟨A7, S7, hT7, hA7, hS7⟩ :=
    streamT_decomp 18 [(v0, 18), (v1, 18), (v2, 18), (v3, 18), (v4, 18), (v5, 18), (v6, 18), (v7, 18)] [(v0, 18), (v1, 18), (v2, 18), (v3, 18), (v4, 18), (v5, 18), (v6, 18)] [] v7 18 126 rfl rfl hvs
      (by norm_num [List.map_cons, List.map_nil, List.sum_cons, List.sum_nil])
  obtain ⟨B0, R0, hU0, hB0, hR0⟩ :=
    streamT_decomp2 18 [(v0, 18), (v1, 18), (v2, 18), (v3, 18), (v4, 18), (v5, 18), (v6, 18), (v7, 18)] [] [(v2, 18), (v3, 18), (v4, 18), (v5, 18), (v6, 18), (v7, 18)] v0 v1 18 18 0 rfl rfl hvs
      (by norm_num [List.map_cons, List.map_nil, List.sum_cons, List.sum_nil])
  obtain ⟨B1, R1, hU1, hB1, hR1⟩ :=
    streamT_decomp2 18 [(v0, 18), (v1, 18), (v2, 18), (v3, 18), (v4, 18), (v5, 18), (v6, 18), (v7, 18)] [(v0, 18)] [(v3, 18), (v4, 18), (v5, 18), (v6, 18), (v7, 18)] v1 v2 18 18 18 rfl rfl hvs
      (by norm_num [List.map_cons, List.map_nil, List.sum_cons, List.sum_nil])
  obtain ⟨B2, R2, hU2, hB2, hR2⟩ :=
    streamT_decomp2 18 [(v0, 18), (v1, 18), (v2, 18), (v3, 18), (v4, 18), (v5, 18), (v6, 18), (v7, 18)] [(v0, 18), (v1, 18)] [(v4, 18), (v5, 18), (v6, 18), (v7, 18)] v2 v3 18 18 36 rfl rfl hvs
      (by norm_num [List.map_cons, List.map_nil, List.sum_cons, List.sum_nil])
  obtain ⟨B4, R4, hU4, hB4, hR4⟩ :=
    streamT_decomp2 18 [(v0, 18), (v1, 18), (v2, 18), (v3, 18), (v4, 18), (v5, 18), (v6, 18), (v7, 18)] [(v0, 18), (v1, 18), (v2, 18), (v3, 18)] [(v6, 18), (v7, 18)] v4 v5 18 18 72 rfl rfl hvs
      (by norm_num [List.map_cons, List.map_nil, List.sum_cons, List.sum_nil])
  obtain ⟨B5, R5, hU5, hB5, hR5⟩ :=
    streamT_decomp2 18 [(v0, 18), (v1, 18), (v2, 18), (v3, 18), (v4, 18), (v5, 18), (v6, 18), (v7, 18)] [(v0, 18), (v1, 18), (v2, 18), (v3, 18), (v4, 18)] [(v7, 18)] v5 v6 18 18 90 rfl rfl hvs
      (by norm_num [List.map_cons, List.map_nil, List.sum_cons, List.sum_nil])
  obtain ⟨B6, R6, hU6, hB6, hR6⟩ :=
    streamT_decomp2 18 [(v0, 18), (v1, 18), (v2, 18), (v3, 18), (v4, 18), (v5, 18), (v6, 18), (v7, 18)] [(v0, 18), (v1, 18), (v2, 18), (v3, 18), (v4, 18), (v5, 18)] [] v6 v7 18 18 108 rfl rfl hvs
      (by norm_num [List.map_cons, List.map_nil, List.sum_cons, List.sum_nil])
  rw [key, key2]
  simp only [List.cons.injEq]
  refine ⟨?_, ?_, ?_, ?_, ?_, ?_, ?_, ?_, ?_, ?_, ?_, ?_, ?_, ?_, ?_, ?_, ?_, ?_, trivial⟩
  · rw [hT0]
    exact byteSpec_mid 18 A0 v0 S0 (8 * 18 - 0 - 18) 18 0 10 hA0 hS0
      (by norm_num) (by norm_num)
  · rw [hT0]
    exact byteSpec_mid 18 A0 v0 S0 (8 * 18 - 0 - 18) 18 1 2 hA0 hS0
      (by norm_num) (by norm_num)
  · rw [hU0]
    exact byteSpec_bnd 18 B0 v0 v1 R0 (8 * 18 - 0 - 18 - 18) 2 2 6 12 3 63 18 hB0 hv0 hv1 hR0
      (by norm_num) (by norm_num) (by norm_num) (by norm_num) (by norm_num)
  · rw [hT1]
    exact byteSpec_mid 18 A1 v1 S1 (8 * 18 - 18 - 18) 18 3 4 hA1 hS1
      (by norm_num) (by norm_num)
  · rw [hU1]
    exact byteSpec_bnd 18 B1 v1 v2 R1 (8 * 18 - 18 - 18 - 18) 4 4 4 14 15 15 18 hB1 hv1 hv2 hR1
      (by norm_num) (by norm_num) (by norm_num) (by norm_num) (by norm_num)
  · rw [hT2]
    exact byteSpec_mid 18 A2 v2 S2 (8 * 18 - 36 - 18) 18 5 6 hA2 hS2
      (by norm_num) (by norm_num)
  · rw [hU2]
    exact byteSpec_bnd 18 B2 v2 v3 R2 (8 * 18 - 36 - 18 - 18) 6 6 2 16 63 3 18 hB2 hv2 hv3 hR2
      (by norm_num) (by norm_num) (by norm_num) (by norm_num) (by norm_num)
  · rw [hT3]
    exact byteSpec_mid 18 A3 v3 S3 (8 * 18 - 54 - 18) 18 7 8 hA3 hS3
      (by norm_num) (by norm_num)
  · rw [hT3]
    exact byteSpec_mid0 18 A3 v3 S3 (8 * 18 - 54 - 18) 18 8 hA3 hS3
      (by norm_num) (by norm_num)
  · rw [hT4]
    exact byteSpec_mid 18 A4 v4 S4 (8 * 18 - 72 - 18) 18 9 10 hA4 hS4
      (by norm_num) (by norm_num)
  · rw [hT4]
    exact byteSpec_mid 18 A4 v4 S4 (8 * 18 - 72 - 18) 18 10 2 hA4 hS4
      (by norm_num) (by norm_num)
  · rw [hU4]
    exact byteSpec_bnd 18 B4 v4 v5 R4 (8 * 18 - 72 - 18 - 18) 11 2 6 12 3 63 18 hB4 hv4 hv5 hR4
      (by norm_num) (by norm_num) (by norm_num) (by norm_num) (by norm_num)
  · rw [hT5]
    exact byteSpec_mid 18 A5 v5 S5 (8 * 18 - 90 - 18) 18 12 4 hA5 hS5
      (by norm_num) (by norm_num)
  · rw [hU5]
    exact byteSpec_bnd 18 B5 v5 v6 R5 (8 * 18 - 90 - 18 - 18) 13 4 4 14 15 15 18 hB5 hv5 hv6 hR5
      (by norm_num) (by norm_num) (by norm_num) (by norm_num) (by norm_num)
  · rw [hT6]
    exact byteSpec_mid 18 A6 v6 S6 (8 * 18 - 108 - 18) 18 14 6 hA6 hS6
      (by norm_num) (by norm_num)
  · rw [hU6]
    exact byteSpec_bnd 18 B6 v6 v7 R6 (8 * 18 - 108 - 18 - 18) 15 6 2 16 63 3 18 hB6 hv6 hv7 hR6
      (by norm_num) (by norm_num) (by norm_num) (by norm_num) (by norm_num)
  · rw [hT7]
    exact byteSpec_mid 18 A7 v7 S7 (8 * 18 - 126 - 18) 18 16 8 hA7 hS7
      (by norm_num) (by norm_num)
  · rw [hT7]
    exact byteSpec_mid0 18 A7 v7 S7 (8 * 18 - 126 - 18) 18 17 hA7 hS7
      (by norm_num) (by norm_num)

set_option maxRecDepth 16000 in
set_option maxHeartbeats 1000000 in
theorem c5_pack_eq_19 (v0 v1 v2 v3 v4 v5 v6 v7 : Nat) (hv0 : v0 < 2 ^ 19) (hv1 : v1 < 2 ^ 19) (hv2 : v2 < 2 ^ 19) (hv3 : v3 < 2 ^ 19) (hv4 : v4 < 2 ^ 19) (hv5 : v5 < 2 ^ 19) (hv6 : v6 < 2 ^ 19) (hv7 : v7 < 2 ^ 19) :
    (packSeq (BitPacker.new (List.replicate 19 0)) [(v0, 19), (v1, 19), (v2, 19), (v3, 19), (v4, 19), (v5, 19), (v6, 19), (v7, 19)]).bytes
      = pack_bits_19 v0 v1 v2 v3 v4 v5 v6 v7 := by
  have hvs : ∀ p ∈ ([(v0, 19), (v1, 19), (v2, 19), (v3, 19), (v4, 19), (v5, 19), (v6, 19), (v7, 19)] : List (Nat × Nat)), p.1 < 2 ^ p.2 := by
    intro p hp
    simp only [List.mem_cons, List.not_mem_nil, or_false] at hp
    rcases hp with rfl | rfl | rfl | rfl | rfl | rfl | rfl | rfl
    exacts [hv0, hv1, hv2, hv3, hv4, hv5, hv6, hv7]
  obtain ⟨-, -, -, ⟨hlen, hbytes⟩, -, -⟩ :=
    packSeq_inv 19 [(v0, 19), (v1, 19), (v2, 19), (v3, 19), (v4, 19), (v5, 19), (v6, 19), (v7, 19)] 0 0 _ hvs
      (by norm_num [List.map_cons, List.map_nil, List.sum_cons, List.sum_nil]) (packInv_init 19)
  have key : (packSeq (BitPacker.new (List.replicate 19 0)) [(v0, 19), (v1, 19), (v2, 19), (v3, 19), (v4, 19), (v5, 19), (v6, 19), (v7, 19)]).bytes
      = [ ByteSpec 19 (streamT 19 [(v0, 19), (v1, 19), (v2, 19), (v3, 19), (v4, 19), (v5, 19), (v6, 19), (v7, 19)] 0 0) 0,
          ByteSpec 19 (streamT 19 [(v0, 19), (v1, 19), (v2, 19), (v3, 19), (v4, 19), (v5, 19), (v6, 19), (v7, 19)] 0 0) 1,
          ByteSpec 19 (streamT 19 [(v0, 19), (v1, 19), (v2, 19), (v3, 19), (v4, 19), (v5, 19), (v6, 19), (v7, 19)] 0 0) 2,
          ByteSpec 19 (streamT 19 [(v0, 19), (v1, 19), (v2, 19), (v3, 19), (v4, 19), (v5, 19), (v6, 19), (v7, 19)] 0 0) 3,
          ByteSpec 19 (streamT 19 [(v0, 19), (v1, 19), (v2, 19), (v3, 19), (v4, 19), (v5, 19), (v6, 19), (v7, 19)] 0 0) 4,
          ByteSpec 19 (streamT 19 [(v0, 19), (v1, 19), (v2, 19), (v3, 19), (v4, 19), (v5, 19), (v6, 19), (v7, 19)] 0 0) 5,
          ByteSpec 19 (streamT 19 [(v0, 19), (v1, 19), (v2, 19), (v3, 19), (v4, 19), (v5, 19), (v6, 19), (v7, 19)] 0 0) 6,
          ByteSpec 19 (streamT 19 [(v0, 19), (v1, 19), (v2, 19), (v3, 19), (v4, 19), (v5, 19), (v6, 19), (v7, 19)] 0 0) 7,
          ByteSpec 19 (streamT 19 [(v0, 19), (v1, 19), (v2, 19), (v3, 19), (v4, 19), (v5, 19), (v6, 19), (v7, 19)] 0 0) 8,
          ByteSpec 19 (streamT 19 [(v0, 19), (v1, 19), (v2, 19), (v3, 19), (v4, 19), (v5, 19), (v6, 19), (v7, 19)] 0 0) 9,
          ByteSpec 19 (streamT 19 [(v0, 19), (v1, 19), (v2, 19), (v3, 19), (v4, 19), (v5, 19), (v6, 19), (v7, 19)] 0 0) 10,
          ByteSpec 19 (streamT 19 [(v0, 19), (v1, 19), (v2, 19), (v3, 19), (v4, 19), (v5, 19), (v6, 19), (v7, 19)] 0 0) 11,
          ByteSpec 19 (streamT 19 [(v0, 19), (v1, 19), (v2, 19), (v3, 19), (v4, 19), (v5, 19), (v6, 19), (v7, 19)] 0 0) 12,
          ByteSpec 19 (streamT 19 [(v0, 19), (v1, 19), (v2, 19), (v3, 19), (v4, 19), (v5, 19), (v6, 19), (v7, 19)] 0 0) 13,
          ByteSpec 19 (streamT 19 [(v0, 19), (v1, 19), (v2, 19), (v3, 19), (v4, 19), (v5, 19), (v6, 19), (v7, 19)] 0 0) 14,
          ByteSpec 19 (streamT 19 [(v0, 19), (v1, 19), (v2, 19), (v3, 19), (v4, 19), (v5, 19), (v6, 19), (v7, 19)] 0 0) 15,
          ByteSpec 19 (streamT 19 [(v0, 19), (v1, 19), (v2, 19), (v3, 19), (v4, 19), (v5, 19), (v6, 19), (v7, 19)] 0 0) 16,
          ByteSpec 19 (streamT 19 [(v0, 19), (v1, 19), (v2, 19), (v3, 19), (v4, 19), (v5, 19), (v6, 19), (v7, 19)] 0 0) 17,
          ByteSpec 19 (streamT 19 [(v0, 19), (v1, 19), (v2, 19), (v3, 19), (v4, 19), (v5, 19), (v6, 19), (v7, 19)] 0 0) 18 ] :=
    (list_eq_map_range_of_getD _ _ 19 hlen hbytes).trans (by rfl)
  have key2 : pack_bits_19 v0 v1 v2 v3 v4 v5 v6 v7
      = [ u8 (((v0 >>> 11) &&& 0xff)),
          u8 (((v0 >>> 3) &&& 0xff)),
          u8 (((((v0) &&& 0x7) <<< 5) ||| ((v1 >>> 14) &&& 0x1f))),
          u8 (((v1 >>> 6) &&& 0xff)),
          u8 (((((v1) &&& 0x3f) <<< 2) ||| ((v2 >>> 17) &&& 0x3))),
          u8 (((v2 >>> 9) &&& 0xff)),
          u8 (((v2 >>> 1) &&& 0xff)),
          u8 (((((v2) &&& 0x1) <<< 7) ||| ((v3 >>> 12) &&& 0x7f))),
          u8 (((v3 >>> 4) &&& 0xff)),
          u8 (((((v3) &&& 0xf) <<< 4) ||| ((v4 >>> 15) &&& 0xf))),
          u8 (((v4 >>> 7) &&& 0xff)),
          u8 (((((v4) &&& 0x7f) <<< 1) ||| ((v5 >>> 18) &&& 0x1))),
          u8 (((v5 >>> 10) &&& 0xff)),
          u8 (((v5 >>> 2) &&& 0xff)),
          u8 (((((v5) &&& 0x3) <<< 6) ||| ((v6 >>> 13) &&& 0x3f))),
          u8 (((v6 >>> 5) &&& 0xff)),
          u8 (((((v6) &&& 0x1f) <<< 3) ||| ((v7 >>> 16) &&& 0x7))),
          u8 (((v7 >>> 8) &&& 0xff)),
          u8 (((v7) &&& 0xff)) ] := rfl
  obtain ⟨A0, S0, hT0, hA0, hS0⟩ :=
    streamT_decomp 19 [(v0, 19), (v1, 19), (v2, 19), (v3, 19), (v4, 19), (v5, 19), (v6, 19), (v7, 19)] [] [(v1, 19), (v2, 19), (v3, 19), (v4, 19), (v5, 19), (v6, 19), (v7, 19)] v0 19 0 rfl rfl hvs
      (by norm_num [List.map_cons, List.map_nil, List.sum_cons, List.sum_nil])
  obtain ⟨A1, S1, hT1, hA1, hS1⟩ :=
    streamT_decomp 19 [(v0, 19), (v1, 19), (v2, 19), (v3, 19), (v4, 19), (v5, 19), (v6, 19), (v7, 19)] [(v0, 19)] [(v2, 19), (v3, 19), (v4, 19), (v5, 19), (v6, 19), (v7, 19)] v1 19 19 rfl rfl hvs
      (by norm_num [List.map_cons, List.map_nil, List.sum_cons, List.sum_nil])
  obtain ⟨A2, S2, hT2, hA2, hS2⟩ :=
    streamT_decomp 19 [(v0, 19), (v1, 19), (v2, 19), (v3, 19), (v4, 19), (v5, 19), (v6, 19), (v7, 19)] [(v0, 19), (v1, 19)] [(v3, 19), (v4, 19), (v5, 19), (v6, 19), (v7, 19)] v2 19 38 rfl rfl hvs
      (by norm_num [List.map_cons, List.map_nil, List.sum_cons, List.sum_nil])
  obtain ⟨A3, S3, hT3, hA3, hS3⟩ :=
    streamT_decomp 19 [(v0, 19), (v1, 19), (v2, 19), (v3, 19), (v4, 19), (v5, 19), (v6, 19), (v7, 19)] [(v0, 19), (v1, 19), (v2, 19)] [(v4, 19), (v5, 19), (v6, 19), (v7, 19)] v3 19 57 rfl rfl hvs
      (by norm_num [List.map_cons, List.map_nil, List.sum_cons, List.sum_nil])
  obtain ⟨A4, S4, hT4, hA4, hS4⟩ :=
    streamT_decomp 19 [(v0, 19), (v1, 19), (v2, 19), (v3, 19), (v4, 19), (v5, 19), (v6, 19), (v7, 19)] [(v0, 19), (v1, 19), (v2, 19), (v3, 19)] [(v5, 19), (v6, 19), (v7, 19)] v4 19 76 rfl rfl hvs
      (by norm_num [List.map_cons, List.map_nil, List.sum_cons, List.sum_nil])
  obtain ⟨A5, S5, hT5, hA5, hS5⟩ :=
    streamT_decomp 19 [(v0, 19), (v1, 19), (v2, 19), (v3, 19), (v4, 19), (v5, 19), (v6, 19), (v7, 19)] [(v0, 19), (v1, 19), (v2, 19), (v3, 19), (v4, 19)] [(v6, 19), (v7, 19)] v5 19 95 rfl rfl hvs
      (by norm_num [List.map_cons, List.map_nil, List.sum_cons, List.sum_nil])
  obtain ⟨A6, S6, hT6, hA6, hS6⟩ :=
    streamT_decomp 19 [(v0, 19), (v1, 19), (v2, 19), (v3, 19), (v4, 19), (v5, 19), (v6, 19), (v7, 19)] [(v0, 19), (v1, 19), (v2, 19), (v3, 19), (v4, 19), (v5, 19)] [(v7, 19)] v6 19 114 rfl rfl hvs
      (by norm_num [List.map_cons, List.map_nil, List.sum_cons, List.sum_nil])
  obtain ⟨A7, S7, hT7, hA7, hS7⟩ :=
    streamT_decomp 19 [(v0, 19), (v1, 19), (v2, 19), (v3, 19), (v4, 19), (v5, 19), (v6, 19), (v7, 19)] [(v0, 19), (v1, 19), (v2, 19), (v3, 19), (v4, 19), (v5, 19), (v6, 19)] [] v7 19 133 rfl rfl hvs
      (by norm_num [List.map_cons, List.map_nil, List.sum_cons, List.sum_nil])
  obtain ⟨B0, R0, hU0, hB0, hR0⟩ :=
    streamT_decomp2 19 [(v0, 19), (v1, 19), (v2, 19), (v3, 19), (v4, 19), (v5, 19), (v6, 19), (v7, 19)] [] [(v2, 19), (v3, 19), (v4, 19), (v5, 19), (v6, 19), (v7, 19)] v0 v1 19 19 0 rfl rfl hvs
      (by norm_num [List.map_cons, List.map_nil, List.sum_cons, List.sum_nil])
  obtain ⟨B1, R1, hU1, hB1, hR1⟩ :=
    streamT_decomp2 19 [(v0, 19), (v1, 19), (v2, 19), (v3, 19), (v4, 19), (v5, 19), (v6, 19), (v7, 19)] [(v0, 19)] [(v3, 19), (v4, 19), (v5, 19), (v6, 19), (v7, 19)] v1 v2 19 19 19 rfl rfl hvs
      (by norm_num [List.map_cons, List.map_nil, List.sum_cons, List.sum_nil])
  obtain ⟨B2, R2, hU2, hB2, hR2⟩ :=
    streamT_decomp2 19 [(v0, 19), (v1, 19), (v2, 19), (v3, 19), (v4, 19), (v5, 19), (v6, 19), (v7, 19)] [(v0, 19), (v1, 19)] [(v4, 19), (v5, 19), (v6, 19), (v7, 19)] v2 v3 19 19 38 rfl rfl hvs
      (by norm_num [List.map_cons, List.map_nil, List.sum_cons, List.sum_nil])
  obtain ⟨B3, R3, hU3, hB3, hR3⟩ :=
    streamT_decomp2 19 [(v0, 19), (v1, 19), (v2, 19), (v3, 19), (v4, 19), (v5, 19), (v6, 19), (v7, 19)] [(v0, 19), (v1, 19), (v2, 19)] [(v5, 19), (v6, 19), (v7, 19)] v3 v4 19 19 57 rfl rfl hvs
      (by norm_num [List.map_cons, List.map_nil, List.sum_cons, List.sum_nil])
  obtain ⟨B4, R4, hU4, hB4, hR4⟩ :=
    streamT_decomp2 19 [(v0, 19), (v1, 19), (v2, 19), (v3, 19), (v4, 19), (v5, 19), (v6, 19), (v7, 19)] [(v0, 19), (v1, 19), (v2, 19), (v3, 19)] [(v6, 19), (v7, 19)] v4 v5 19 19 76 rfl rfl hvs
      (by norm_num [List.map_cons, List.map_nil, List.sum_cons, List.sum_nil])
  obtain ⟨B5, R5, hU5, hB5, hR5⟩ :=
    streamT_decomp2 19 [(v0, 19), (v1, 19), (v2, 19), (v3, 19), (v4, 19), (v5, 19), (v6, 19), (v7, 19)] [(v0, 19), (v1, 19), (v2, 19), (v3, 19), (v4, 19)] [(v7, 19)] v5 v6 19 19 95 rfl rfl hvs
      (by norm_num [List.map_cons, List.map_nil, List.sum_cons, List.sum_nil])
  obtain ⟨B6, R6, hU6, hB6, hR6⟩ :=
    streamT_decomp2 19 [(v0, 19), (v1, 19), (v2, 19), (v3, 19), (v4, 19), (v5, 19), (v6, 19), (v7, 19)] [(v0, 19), (v1, 19), (v2, 19), (v3, 19), (v4, 19), (v5, 19)] [] v6 v7 19 19 114 rfl rfl hvs
      (by norm_num [List.map_cons, List.map_nil, List.sum_cons, List.sum_nil])
  rw [key, key2]
  simp only [List.cons.injEq]
  refine ⟨?_, ?_, ?_, ?_, ?_, ?_, ?_, ?_, ?_, ?_, ?_, ?_, ?_, ?_, ?_, ?_, ?_, ?_, ?_, trivial⟩
  · rw [hT0]
    exact byteSpec_mid 19 A0 v0 S0 (8 * 19 - 0 - 19) 19 0 11 hA0 hS0
      (by norm_num) (by norm_num)
  · rw [hT0]
    exact byteSpec_mid 19 A0 v0 S0 (8 * 19 - 0 - 19) 19 1 3 hA0 hS0
      (by norm_num) (by norm_num)
  · rw [hU0]
    exact byteSpec_bnd 19 B0 v0 v1 R0 (8 * 19 - 0 - 19 - 19) 2 3 5 14 7 31 19 hB0 hv0 hv1 hR0
      (by norm_num) (by norm_num) (by norm_num) (by norm_num) (by norm_num)
  · rw [hT1]
    exact byteSpec_mid 19 A1 v1 S1 (8 * 19 - 19 - 19) 19 3 6 hA1 hS1
      (by norm_num) (by norm_num)
  · rw [hU1]
    exact byteSpec_bnd 19 B1 v1 v2 R1 (8 * 19 - 19 - 19 - 19) 4 6 2 17 63 3 19 hB1 hv1 hv2 hR1
      (by norm_num) (by norm_num) (by norm_num) (by norm_num) (by norm_num)
  · rw [hT2]
    exact byteSpec_mid 19 A2 v2 S2 (8 * 19 - 38 - 19) 19 5 9 hA2 hS2
      (by norm_num) (by norm_num)
  · rw [hT2]
    exact byteSpec_mid 19 A2 v2 S2 (8 * 19 - 38 - 19) 19 6 1 hA2 hS2
      (by norm_num) (by norm_num)
  · rw [hU2]
    exact byteSpec_bnd 19 B2 v2 v3 R2 (8 * 19 - 38 - 19 - 19) 7 1 7 12 1 127 19 hB2 hv2 hv3 hR2
      (by norm_num) (by norm_num) (by norm_num) (by norm_num) (by norm_num)
  · rw [hT3]
    exact byteSpec_mid 19 A3 v3 S3 (8 * 19 - 57 - 19) 19 8 4 hA3 hS3
      (by norm_num) (by norm_num)
  · rw [hU3]
    exact byteSpec_bnd 19 B3 v3 v4 R3 (8 * 19 - 57 - 19 - 19) 9 4 4 15 15 15 19 hB3 hv3 hv4 hR3
      (by norm_num) (by norm_num) (by norm_num) (by norm_num) (by norm_num)
  · rw [hT4]
    exact byteSpec_mid 19 A4 v4 S4 (8 * 19 - 76 - 19) 19 10 7 hA4 hS4
      (by norm_num) (by norm_num)
  · rw [hU4]
    exact byteSpec_bnd 19 B4 v4 v5 R4 (8 * 19 - 76 - 19 - 19) 11 7 1 18 127 1 19 hB4 hv4 hv5 hR4
      (by norm_num) (by norm_num) (by norm_num) (by norm_num) (by norm_num)
  · rw [hT5]
    exact byteSpec_mid 19 A5 v5 S5 (8 * 19 - 95 - 19) 19 12 10 hA5 hS5
      (by norm_num) (by norm_num)
  · rw [hT5]
    exact byteSpec_mid 19 A5 v5 S5 (8 * 19 - 95 - 19) 19 13 2 hA5 hS5
      (by norm_num) (by norm_num)
  · rw [hU5]
    exact byteSpec_bnd 19 B5 v5 v6 R5 (8 * 19 - 95 - 19 - 19) 14 2 6 13 3 63 19 hB5 hv5 hv6 hR5
      (by norm_num) (by norm_num) (by norm_num) (by norm_num) (by norm_num)
  · rw [hT6]
    exact byteSpec_mid 19 A6 v6 S6 (8 * 19 - 114 - 19) 19 15 5 hA6 hS6
      (by norm_num) (by norm_num)
  · rw [hU6]
    exact byteSpec_bnd 19 B6 v6 v7 R6 (8 * 19 - 114 - 19 - 19) 16 5 3 16 31 7 19 hB6 hv6 hv7 hR6
      (by norm_num) (by norm_num) (by norm_num) (by norm_num) (by norm_num)
  · rw [hT7]
    exact byteSpec_mid 19 A7 v7 S7 (8 * 19 - 133 - 19) 19 17 8 hA7 hS7
      (by norm_num) (by norm_num)
  · rw [hT7]
    exact byteSpec_mid0 19 A7 v7 S7 (8 * 19 - 133 - 19) 19 18 hA7 hS7
      (by norm_num) (by norm_num)

set_option maxRecDepth 16000 in
set_option maxHeartbeats 1000000 in
theorem c5_pack_eq_20 (v0 v1 v2 v3 v4 v5 v6 v7 : Nat) (hv0 : v0 < 2 ^ 20) (hv1 : v1 < 2 ^ 20) (hv2 : v2 < 2 ^ 20) (hv3 : v3 < 2 ^ 20) (hv4 : v4 < 2 ^ 20) (hv5 : v5 < 2 ^ 20) (hv6 : v6 < 2 ^ 20) (hv7 : v7 < 2 ^ 20) :
    (packSeq (BitPacker.new (List.replicate 20 0)) [(v0, 20), (v1, 20), (v2, 20), (v3, 20), (v4, 20), (v5, 20), (v6, 20), (v7, 20)]).bytes
      = pack_bits_20 v0 v1 v2 v3 v4 v5 v6 v7 := by
  have hvs : ∀ p ∈ ([(v0, 20), (v1, 20), (v2, 20), (v3, 20), (v4, 20), (v5, 20), (v6, 20), (v7, 20)] : List (Nat × Nat)), p.1 < 2 ^ p.2 := by
    intro p hp
    simp only [List.mem_cons, List.not_mem_nil, or_false] at hp
    rcases hp with rfl | rfl | rfl | rfl | rfl | rfl | rfl | rfl
    exacts [hv0, hv1, hv2, hv3, hv4, hv5, hv6, hv7]
  obtain ⟨-, -, -, ⟨hlen, hbytes⟩, -, -⟩ :=
    packSeq_inv 20 [(v0, 20), (v1, 20), (v2, 20), (v3, 20), (v4, 20), (v5, 20), (v6, 20), (v7, 20)] 0 0 _ hvs
      (by norm_num [List.map_cons, List.map_nil, List.sum_cons, List.sum_nil]) (packInv_init 20)
  have key : (packSeq (BitPacker.new (List.replicate 20 0)) [(v0, 20), (v1, 20), (v2, 20), (v3, 20), (v4, 20), (v5, 20), (v6, 20), (v7, 20)]).bytes
      = [ ByteSpec 20 (streamT 20 [(v0, 20), (v1, 20), (v2, 20), (v3, 20), (v4, 20), (v5, 20), (v6, 20), (v7, 20)] 0 0) 0,
          ByteSpec 20 (streamT 20 [(v0, 20), (v1, 20), (v2, 20), (v3, 20), (v4, 20), (v5, 20), (v6, 20), (v7, 20)] 0 0) 1,
          ByteSpec 20 (streamT 20 [(v0, 20), (v1, 20), (v2, 20), (v3, 20), (v4, 20), (v5, 20), (v6, 20), (v7, 20)] 0 0) 2,
          ByteSpec 20 (streamT 20 [(v0, 20), (v1, 20), (v2, 20), (v3, 20), (v4, 20), (v5, 20), (v6, 20), (v7, 20)] 0 0) 3,
          ByteSpec 20 (streamT 20 [(v0, 20), (v1, 20), (v2, 20), (v3, 20), (v4, 20), (v5, 20), (v6, 20), (v7, 20)] 0 0) 4,
          ByteSpec 20 (streamT 20 [(v0, 20), (v1, 20), (v2, 20), (v3, 20), (v4, 20), (v5, 20), (v6, 20), (v7, 20)] 0 0) 5,
          ByteSpec 20 (streamT 20 [(v0, 20), (v1, 20), (v2, 20), (v3, 20), (v4, 20), (v5, 20), (v6, 20), (v7, 20)] 0 0) 6,
          ByteSpec 20 (streamT 20 [(v0, 20), (v1, 20), (v2, 20), (v3, 20), (v4, 20), (v5, 20), (v6, 20), (v7, 20)] 0 0) 7,
          ByteSpec 20 (streamT 20 [(v0, 20), (v1, 20), (v2, 20), (v3, 20), (v4, 20), (v5, 20), (v6, 20), (v7, 20)] 0 0) 8,
          ByteSpec 20 (streamT 20 [(v0, 20), (v1, 20), (v2, 20), (v3, 20), (v4, 20), (v5, 20), (v6, 20), (v7, 20)] 0 0) 9,
          ByteSpec 20 (streamT 20 [(v0, 20), (v1, 20), (v2, 20), (v3, 20), (v4, 20), (v5, 20), (v6, 20), (v7, 20)] 0 0) 10,
          ByteSpec 20 (streamT 20 [(v0, 20), (v1, 20), (v2, 20), (v3, 20), (v4, 20), (v5, 20), (v6, 20), (v7, 20)] 0 0) 11,
          ByteSpec 20 (streamT 20 [(v0, 20), (v1, 20), (v2, 20), (v3, 20), (v4, 20), (v5, 20), (v6, 20), (v7, 20)] 0 0) 12,
          ByteSpec 20 (streamT 20 [(v0, 20), (v1, 20), (v2, 20), (v3, 20), (v4, 20), (v5, 20), (v6, 20), (v7, 20)] 0 0) 13,
          ByteSpec 20 (streamT 20 [(v0, 20), (v1, 20), (v2, 20), (v3, 20), (v4, 20), (v5, 20), (v6, 20), (v7, 20)] 0 0) 14,
          ByteSpec 20 (streamT 20 [(v0, 20), (v1, 20), (v2, 20), (v3, 20), (v4, 20), (v5, 20), (v6, 20), (v7, 20)] 0 0) 15,
          ByteSpec 20 (streamT 20 [(v0, 20), (v1, 20), (v2, 20), (v3, 20), (v4, 20), (v5, 20), (v6, 20), (v7, 20)] 0 0) 16,
          ByteSpec 20 (streamT 20 [(v0, 20), (v1, 20), (v2, 20), (v3, 20), (v4, 20), (v5, 20), (v6, 20), (v7, 20)] 0 0) 17,
          ByteSpec 20 (streamT 20 [(v0, 20), (v1, 20), (v2, 20), (v3, 20), (v4, 20), (v5, 20), (v6, 20), (v7, 20)] 0 0) 18,
          ByteSpec 20 (streamT 20 [(v0, 20), (v1, 20), (v2, 20), (v3, 20), (v4, 20), (v5, 20), (v6, 20), (v7, 20)] 0 0) 19 ] :=
    (list_eq_map_range_of_getD _ _ 20 hlen hbytes).trans (by rfl)
  have key2 : pack_bits_20 v0 v1 v2 v3 v4 v5 v6 v7
      = [ u8 (((v0 >>> 12) &&& 0xff)),
          u8 (((v0 >>> 4) &&& 0xff)),
          u8 (((((v0) &&& 0xf) <<< 4) ||| ((v1 >>> 16) &&& 0xf))),
          u8 (((v1 >>> 8) &&& 0xff)),
          u8 (((v1) &&& 0xff)),
          u8 (((v2 >>> 12) &&& 0xff)),
          u8 (((v2 >>> 4) &&& 0xff)),
          u8 (((((v2) &&& 0xf) <<< 4) ||| ((v3 >>> 16) &&& 0xf))),
          u8 (((v3 >>> 8) &&& 0xff)),
          u8 (((v3) &&& 0xff)),
          u8 (((v4 >>> 12) &&& 0xff)),
          u8 (((v4 >>> 4) &&& 0xff)),
          u8 (((((v4) &&& 0xf) <<< 4) ||| ((v5 >>> 16) &&& 0xf))),
          u8 (((v5 >>> 8) &&& 0xff)),
          u8 (((v5) &&& 0xff)),
          u8 (((v6 >>> 12) &&& 0xff)),
          u8 (((v6 >>> 4) &&& 0xff)),
          u8 (((((v6) &&& 0xf) <<< 4) ||| ((v7 >>> 16) &&& 0xf))),
          u8 (((v7 >>> 8) &&& 0xff)),
          u8 (((v7) &&& 0xff)) ] := rfl
  obtain ⟨A0, S0, hT0, hA0, hS0⟩ :=
    streamT_decomp 20 [(v0, 20), (v1, 20), (v2, 20), (v3, 20), (v4, 20), (v5, 20), (v6, 20), (v7, 20)] [] [(v1, 20), (v2, 20), (v3, 20), (v4, 20), (v5, 20), (v6, 20), (v7, 20)] v0 20 0 rfl rfl hvs
      (by norm_num [List.map_cons, List.map_nil, List.sum_cons, List.sum_nil])
  obtain ⟨A1, S1, hT1, hA1, hS1⟩ :=
    streamT_decomp 20 [(v0, 20), (v1, 20), (v2, 20), (v3, 20), (v4, 20), (v5, 20), (v6, 20), (v7, 20)] [(v0, 20)] [(v2, 20), (v3, 20), (v4, 20), (v5, 20), (v6, 20), (v7, 20)] v1 20 20 rfl rfl hvs
      (by norm_num [List.map_cons, List.map_nil, List.sum_cons, List.sum_nil])
  obtain ⟨A2, S2, hT2, hA2, hS2⟩ :=
    streamT_decomp 20 [(v0, 20), (v1, 20), (v2, 20), (v3, 20), (v4, 20), (v5, 20), (v6, 20), (v7, 20)] [(v0, 20), (v1, 20)] [(v3, 20), (v4, 20), (v5, 20), (v6, 20), (v7, 20)] v2 20 40 rfl rfl hvs
      (by norm_num [List.map_cons, List.map_nil, List.sum_cons, List.sum_nil])
  obtain ⟨A3, S3, hT3, hA3, hS3⟩ :=
    streamT_decomp 20 [(v0, 20), (v1, 20), (v2, 20), (v3, 20), (v4, 20), (v5, 20), (v6, 20), (v7, 20)] [(v0, 20), (v1, 20), (v2, 20)] [(v4, 20), (v5, 20), (v6, 20), (v7, 20)] v3 20 60 rfl rfl hvs
      (by norm_num [List.map_cons, List.map_nil, List.sum_cons, List.sum_nil])
  obtain ⟨A4, S4, hT4, hA4, hS4⟩ :=
    streamT_decomp 20 [(v0, 20), (v1, 20), (v2, 20), (v3, 20), (v4, 20), (v5, 20), (v6, 20), (v7, 20)] [(v0, 20), (v1, 20), (v2, 20), (v3, 20)] [(v5, 20), (v6, 20), (v7, 20)] v4 20 80 rfl rfl hvs
      (by norm_num [List.map_cons, List.map_nil, List.sum_cons, List.sum_nil])
  obtain ⟨A5, S5, hT5, hA5, hS5⟩ :=
    streamT_decomp 20 [(v0, 20), (v1, 20), (v2, 20), (v3, 20), (v4, 20), (v5, 20), (v6, 20), (v7, 20)] [(v0, 20), (v1, 20), (v2, 20), (v3, 20), (v4, 20)] [(v6, 20), (v7, 20)] v5 20 100 rfl rfl hvs
      (by norm_num [List.map_cons, List.map_nil, List.sum_cons, List.sum_nil])
  obtain ⟨A6, S6, hT6, hA6, hS6⟩ :=
    streamT_decomp 20 [(v0, 20), (v1, 20), (v2, 20), (v3, 20), (v4, 20), (v5, 20), (v6, 20), (v7, 20)] [(v0, 20), (v1, 20), (v2, 20), (v3, 20), (v4, 20), (v5, 20)] [(v7, 20)] v6 20 120 rfl rfl hvs
      (by norm_num [List.map_cons, List.map_nil, List.sum_cons, List.sum_nil])
  obtain ⟨A7, S7, hT7, hA7, hS7⟩ :=
    streamT_decomp 20 [(v0, 20), (v1, 20), (v2, 20), (v3, 20), (v4, 20), (v5, 20), (v6, 20), (v7, 20)] [(v0, 20), (v1, 20), (v2, 20), (v3, 20), (v4, 20), (v5, 20), (v6, 20)] [] v7 20 140 rfl rfl hvs
      (by norm_num [List.map_cons, List.map_nil, List.sum_cons, List.sum_nil])
  obtain ⟨B0, R0, hU0, hB0, hR0⟩ :=
    streamT_decomp2 20 [(v0, 20), (v1, 20), (v2, 20), (v3, 20), (v4, 20), (v5, 20), (v6, 20), (v7, 20)] [] [(v2, 20), (v3, 20), (v4, 20), (v5, 20), (v6, 20), (v7, 20)] v0 v1 20 20 0 rfl rfl hvs
      (by norm_num [List.map_cons, List.map_nil, List.sum_cons, List.sum_nil])
  obtain ⟨B2, R2, hU2, hB2, hR2⟩ :=
    streamT_decomp2 20 [(v0, 20), (v1, 20), (v2, 20), (v3, 20), (v4, 20), (v5, 20), (v6, 20), (v7, 20)] [(v0, 20), (v1, 20)] [(v4, 20), (v5, 20), (v6, 20), (v7, 20)] v2 v3 20 20 40 rfl rfl hvs
      (by norm_num [List.map_cons, List.map_nil, List.sum_cons, List.sum_nil])
  obtain ⟨B4, R4, hU4, hB4, hR4⟩ :=
    streamT_decomp2 20 [(v0, 20), (v1, 20), (v2, 20), (v3, 20), (v4, 20), (v5, 20), (v6, 20), (v7, 20)] [(v0, 20), (v1, 20), (v2, 20), (v3, 20)] [(v6, 20), (v7, 20)] v4 v5 20 20 80 rfl rfl hvs
      (by norm_num [List.map_cons, List.map_nil, List.sum_cons, List.sum_nil])
  obtain ⟨B6, R6, hU6, hB6, hR6⟩ :=
    streamT_decomp2 20 [(v0, 20), (v1, 20), (v2, 20), (v3, 20), (v4, 20), (v5, 20), (v6, 20), (v7, 20)] [(v0, 20), (v1, 20), (v2, 20), (v3, 20), (v4, 20), (v5, 20)] [] v6 v7 20 20 120 rfl rfl hvs
      (by norm_num [List.map_cons, List.map_nil, List.sum_cons, List.sum_nil])
  rw [key, key2]
  simp only [List.cons.injEq]
  refine ⟨?_, ?_, ?_, ?_, ?_, ?_, ?_, ?_, ?_, ?_, ?_, ?_, ?_, ?_, ?_, ?_, ?_, ?_, ?_, ?_, trivial⟩
  · rw [hT0]
    exact byteSpec_mid 20 A0 v0 S0 (8 * 20 - 0 - 20) 20 0 12 hA0 hS0
      (by norm_num) (by norm_num)
  · rw [hT0]
    exact byteSpec_mid 20 A0 v0 S0 (8 * 20 - 0 - 20) 20 1 4 hA0 hS0
      (by norm_num) (by norm_num)
  · rw [hU0]
    exact byteSpec_bnd 20 B0 v0 v1 R0 (8 * 20 - 0 - 20 - 20) 2 4 4 16 15 15 20 hB0 hv0 hv1 hR0
      (by norm_num) (by norm_num) (by norm_num) (by norm_num) (by norm_num)
  · rw [hT1]
    exact byteSpec_mid 20 A1 v1 S1 (8 * 20 - 20 - 20) 20 3 8 hA1 hS1
      (by norm_num) (by norm_num)
  · rw [hT1]
    exact byteSpec_mid0 20 A1 v1 S1 (8 * 20 - 20 - 20) 20 4 hA1 hS1
      (by norm_num) (by norm_num)
  · rw [hT2]
    exact byteSpec_mid 20 A2 v2 S2 (8 * 20 - 40 - 20) 20 5 12 hA2 hS2
      (by norm_num) (by norm_num)
  · rw [hT2]
    exact byteSpec_mid 20 A2 v2 S2 (8 * 20 - 40 - 20) 20 6 4 hA2 hS2
      (by norm_num) (by norm_num)
  · rw [hU2]
    exact byteSpec_bnd 20 B2 v2 v3 R2 (8 * 20 - 40 - 20 - 20) 7 4 4 16 15 15 20 hB2 hv2 hv3 hR2
      (by norm_num) (by norm_num) (by norm_num) (by norm_num) (by norm_num)
  · rw [hT3]
    exact byteSpec_mid 20 A3 v3 S3 (8 * 20 - 60 - 20) 20 8 8 hA3 hS3
      (by norm_num) (by norm_num)
  · rw [hT3]
    exact byteSpec_mid0 20 A3 v3 S3 (8 * 20 - 60 - 20) 20 9 hA3 hS3
      (by norm_num) (by norm_num)
  · rw [hT4]
    exact byteSpec_mid 20 A4 v4 S4 (8 * 20 - 80 - 20) 20 10 12 hA4 hS4
      (by norm_num) (by norm_num)
  · rw [hT4]
    exact byteSpec_mid 20 A4 v4 S4 (8 * 20 - 80 - 20) 20 11 4 hA4 hS4
      (by norm_num) (by norm_num)
  · rw [hU4]
    exact byteSpec_bnd 20 B4 v4 v5 R4 (8 * 20 - 80 - 20 - 20) 12 4 4 16 15 15 20 hB4 hv4 hv5 hR4
      (by norm_num) (by norm_num) (by norm_num) (by norm_num) (by norm_num)
  · rw [hT5]
    exact byteSpec_mid 20 A5 v5 S5 (8 * 20 - 100 - 20) 20 13 8 hA5 hS5
      (by norm_num) (by norm_num)
  · rw [hT5]
    exact byteSpec_mid0 20 A5 v5 S5 (8 * 20 - 100 - 20) 20 14 hA5 hS5
      (by norm_num) (by norm_num)
  · rw [hT6]
    exact byteSpec_mid 20 A6 v6 S6 (8 * 20 - 120 - 20) 20 15 12 hA6 hS6
      (by norm_num) (by norm_num)
  · rw [hT6]
    exact byteSpec_mid 20 A6 v6 S6 (8 * 20 - 120 - 20) 20 16 4 hA6 hS6
      (by norm_num) (by norm_num)
  · rw [hU6]
    exact byteSpec_bnd 20 B6 v6 v7 R6 (8 * 20 - 120 - 20 - 20) 17 4 4 16 15 15 20 hB6 hv6 hv7 hR6
      (by norm_num) (by norm_num) (by norm_num) (by norm_num) (by norm_num)
  · rw [hT7]
    exact byteSpec_mid 20 A7 v7 S7 (8 * 20 - 140 - 20) 20 18 8 hA7 hS7
      (by norm_num) (by norm_num)
  · rw [hT7]
    exact byteSpec_mid0 20 A7 v7 S7 (8 * 20 - 140 - 20) 20 19 hA7 hS7
      (by norm_num) (by norm_num)

set_option maxRecDepth 16000 in
set_option maxHeartbeats 1000000 in
theorem c5_pack_eq_21 (v0 v1 v2 v3 v4 v5 v6 v7 : Nat) (hv0 : v0 < 2 ^ 21) (hv1 : v1 < 2 ^ 21) (hv2 : v2 < 2 ^ 21) (hv3 : v3 < 2 ^ 21) (hv4 : v4 < 2 ^ 21) (hv5 : v5 < 2 ^ 21) (hv6 : v6 < 2 ^ 21) (hv7 : v7 < 2 ^ 21) :
    (packSeq (BitPacker.new (List.replicate 21 0)) [(v0, 21), (v1, 21), (v2, 21), (v3, 21), (v4, 21), (v5, 21), (v6, 21), (v7, 21)]).bytes
      = pack_bits_21 v0 v1 v2 v3 v4 v5 v6 v7 := by
  have hvs : ∀ p ∈ ([(v0, 21), (v1, 21), (v2, 21), (v3, 21), (v4, 21), (v5, 21), (v6, 21), (v7, 21)] : List (Nat × Nat)), p.1 < 2 ^ p.2 := by
    intro p hp
    simp only [List.mem_cons, List.not_mem_nil, or_false] at hp
    rcases hp with rfl | rfl | rfl | rfl | rfl | rfl | rfl | rfl
    exacts [hv0, hv1, hv2, hv3, hv4, hv5, hv6, hv7]
  obtain ⟨-, -, -, ⟨hlen, hbytes⟩, -, -⟩ :=
    packSeq_inv 21 [(v0, 21), (v1, 21), (v2, 21), (v3, 21), (v4, 21), (v5, 21), (v6, 21), (v7, 21)] 0 0 _ hvs
      (by norm_num [List.map_cons, List.map_nil, List.sum_cons, List.sum_nil]) (packInv_init 21)
  have key : (packSeq (BitPacker.new (List.replicate 21 0)) [(v0, 21), (v1, 21), (v2, 21), (v3, 21), (v4, 21), (v5, 21), (v6, 21), (v7, 21)]).bytes
      = [ ByteSpec 21 (streamT 21 [(v0, 21), (v1, 21), (v2, 21), (v3, 21), (v4, 21), (v5, 21), (v6, 21), (v7, 21)] 0 0) 0,
          ByteSpec 21 (streamT 21 [(v0, 21), (v1, 21), (v2, 21), (v3, 21), (v4, 21), (v5, 21), (v6, 21), (v7, 21)] 0 0) 1,
          ByteSpec 21 (streamT 21 [(v0, 21), (v1, 21), (v2, 21), (v3, 21), (v4, 21), (v5, 21), (v6, 21), (v7, 21)] 0 0) 2,
          ByteSpec 21 (streamT 21 [(v0, 21), (v1, 21), (v2, 21), (v3, 21), (v4, 21), (v5, 21), (v6, 21), (v7, 21)] 0 0) 3,
          ByteSpec 21 (streamT 21 [(v0, 21), (v1, 21), (v2, 21), (v3, 21), (v4, 21), (v5, 21), (v6, 21), (v7, 21)] 0 0) 4,
          ByteSpec 21 (streamT 21 [(v0, 21), (v1, 21), (v2, 21), (v3, 21), (v4, 21), (v5, 21), (v6, 21), (v7, 21)] 0 0) 5,
          ByteSpec 21 (streamT 21 [(v0, 21), (v1, 21), (v2, 21), (v3, 21), (v4, 21), (v5, 21), (v6, 21), (v7, 21)] 0 0) 6,
          ByteSpec 21 (streamT 21 [(v0, 21), (v1, 21), (v2, 21), (v3, 21), (v4, 21), (v5, 21), (v6, 21), (v7, 21)] 0 0) 7,
          ByteSpec 21 (streamT 21 [(v0, 21), (v1, 21), (v2, 21), (v3, 21), (v4, 21), (v5, 21), (v6, 21), (v7, 21)] 0 0) 8,
          ByteSpec 21 (streamT 21 [(v0, 21), (v1, 21), (v2, 21), (v3, 21), (v4, 21), (v5, 21), (v6, 21), (v7, 21)] 0 0) 9,
          ByteSpec 21 (streamT 21 [(v0, 21), (v1, 21), (v2, 21), (v3, 21), (v4, 21), (v5, 21), (v6, 21), (v7, 21)] 0 0) 10,
          ByteSpec 21 (streamT 21 [(v0, 21), (v1, 21), (v2, 21), (v3, 21), (v4, 21), (v5, 21), (v6, 21), (v7, 21)] 0 0) 11,
          ByteSpec 21 (streamT 21 [(v0, 21), (v1, 21), (v2, 21), (v3, 21), (v4, 21), (v5, 21), (v6, 21), (v7, 21)] 0 0) 12,
          ByteSpec 21 (streamT 21 [(v0, 21), (v1, 21), (v2, 21), (v3, 21), (v4, 21), (v5, 21), (v6, 21), (v7, 21)] 0 0) 13,
          ByteSpec 21 (streamT 21 [(v0, 21), (v1, 21), (v2, 21), (v3, 21), (v4, 21), (v5, 21), (v6, 21), (v7, 21)] 0 0) 14,
          ByteSpec 21 (streamT 21 [(v0, 21), (v1, 21), (v2, 21), (v3, 21), (v4, 21), (v5, 21), (v6, 21), (v7, 21)] 0 0) 15,
          ByteSpec 21 (streamT 21 [(v0, 21), (v1, 21), (v2, 21), (v3, 21), (v4, 21), (v5, 21), (v6, 21), (v7, 21)] 0 0) 16,
          ByteSpec 21 (streamT 21 [(v0, 21), (v1, 21), (v2, 21), (v3, 21), (v4, 21), (v5, 21), (v6, 21), (v7, 21)] 0 0) 17,
          ByteSpec 21 (streamT 21 [(v0, 21), (v1, 21), (v2, 21), (v3, 21), (v4, 21), (v5, 21), (v6, 21), (v7, 21)] 0 0) 18,
          ByteSpec 21 (streamT 21 [(v0, 21), (v1, 21), (v2, 21), (v3, 21), (v4, 21), (v5, 21), (v6, 21), (v7, 21)] 0 0) 19,
          ByteSpec 21 (streamT 21 [(v0, 21), (v1, 21), (v2, 21), (v3, 21), (v4, 21), (v5, 21), (v6, 21), (v7, 21)] 0 0) 20 ] :=
    (list_eq_map_range_of_getD _ _ 21 hlen hbytes).trans (by rfl)
  have key2 : pack_bits_21 v0 v1 v2 v3 v4 v5 v6 v7
      = [ u8 (((v0 >>> 13) &&& 0xff)),
          u8 (((v0 >>> 5) &&& 0xff)),
          u8 (((((v0) &&& 0x1f) <<< 3) ||| ((v1 >>> 18) &&& 0x7))),
          u8 (((v1 >>> 10) &&& 0xff)),
          u8 (((v1 >>> 2) &&& 0xff)),
          u8 (((((v1) &&& 0x3) <<< 6) ||| ((v2 >>> 15) &&& 0x3f))),
          u8 (((v2 >>> 7) &&& 0xff)),
          u8 (((((v2) &&& 0x7f) <<< 1) ||| ((v3 >>> 20) &&& 0x1))),
          u8 (((v3 >>> 12) &&& 0xff)),
          u8 (((v3 >>> 4) &&& 0xff)),
          u8 (((((v3) &&& 0xf) <<< 4) ||| ((v4 >>> 17) &&& 0xf))),
          u8 (((v4 >>> 9) &&& 0xff)),
          u8 (((v4 >>> 1) &&& 0xff)),
          u8 (((((v4) &&& 0x1) <<< 7) ||| ((v5 >>> 14) &&& 0x7f))),
          u8 (((v5 >>> 6) &&& 0xff)),
          u8 (((((v5) &&& 0x3f) <<< 2) ||| ((v6 >>> 19) &&& 0x3))),
          u8 (((v6 >>> 11) &&& 0xff)),
          u8 (((v6 >>> 3) &&& 0xff)),
          u8 (((((v6) &&& 0x7) <<< 5) ||| ((v7 >>> 16) &&& 0x1f))),
          u8 (((v7 >>> 8) &&& 0xff)),
          u8 (((v7) &&& 0xff)) ] := rfl
  obtain ⟨A0, S0, hT0, hA0, hS0⟩ :=
    streamT_decomp 21 [(v0, 21), (v1, 21), (v2, 21), (v3, 21), (v4, 21), (v5, 21), (v6, 21), (v7, 21)] [] [(v1, 21), (v2, 21), (v3, 21), (v4, 21), (v5, 21), (v6, 21), (v7, 21)] v0 21 0 rfl rfl hvs
      (by norm_num [List.map_cons, List.map_nil, List.sum_cons, List.sum_nil])
  obtain ⟨A1, S1, hT1, hA1, hS1⟩ :=
    streamT_decomp 21 [(v0, 21), (v1, 21), (v2, 21), (v3, 21), (v4, 21), (v5, 21), (v6, 21), (v7, 21)] [(v0, 21)] [(v2, 21), (v3, 21), (v4, 21), (v5, 21), (v6, 21), (v7, 21)] v1 21 21 rfl rfl hvs
      (by norm_num [List.map_cons, List.map_nil, List.sum_cons, List.sum_nil])
  obtain ⟨A2, S2, hT2, hA2, hS2⟩ :=
    streamT_decomp 21 [(v0, 21), (v1, 21), (v2, 21), (v3, 21), (v4, 21), (v5, 21), (v6, 21), (v7, 21)] [(v0, 21), (v1, 21)] [(v3, 21), (v4, 21), (v5, 21), (v6, 21), (v7, 21)] v2 21 42 rfl rfl hvs
      (by norm_num [List.map_cons, List.map_nil, List.sum_cons, List.sum_nil])
  obtain ⟨A3, S3, hT3, hA3, hS3⟩ :=
    streamT_decomp 21 [(v0, 21), (v1, 21), (v2, 21), (v3, 21), (v4, 21), (v5, 21), (v6, 21), (v7, 21)] [(v0, 21), (v1, 21), (v2, 21)] [(v4, 21), (v5, 21), (v6, 21), (v7, 21)] v3 21 63 rfl rfl hvs
      (by norm_num [List.map_cons, List.map_nil, List.sum_cons, List.sum_nil])
  obtain ⟨A4, S4, hT4, hA4, hS4⟩ :=
    streamT_decomp 21 [(v0, 21), (v1, 21), (v2, 21), (v3, 21), (v4, 21), (v5, 21), (v6, 21), (v7, 21)] [(v0, 21), (v1, 21), (v2, 21), (v3, 21)] [(v5, 21), (v6, 21), (v7, 21)] v4 21 84 rfl rfl hvs
      (by norm_num [List.map_cons, List.map_nil, List.sum_cons, List.sum_nil])
  obtain ⟨A5, S5, hT5, hA5, hS5⟩ :=
    streamT_decomp 21 [(v0, 21), (v1, 21), (v2, 21), (v3, 21), (v4, 21), (v5, 21), (v6, 21), (v7, 21)] [(v0, 21), (v1, 21), (v2, 21), (v3, 21), (v4, 21)] [(v6, 21), (v7, 21)] v5 21 105 rfl rfl hvs
      (by norm_num [List.map_cons, List.map_nil, List.sum_cons, List.sum_nil])
  obtain ⟨A6, S6, hT6, hA6, hS6⟩ :=
    streamT_decomp 21 [(v0, 21), (v1, 21), (v2, 21), (v3, 21), (v4, 21), (v5, 21), (v6, 21), (v7, 21)] [(v0, 21), (v1, 21), (v2, 21), (v3, 21), (v4, 21), (v5, 21)] [(v7, 21)] v6 21 126 rfl rfl hvs
      (by norm_num [List.map_cons, List.map_nil, List.sum_cons, List.sum_nil])
  obtain ⟨A7, S7, hT7, hA7, hS7⟩ :=
    streamT_decomp 21 [(v0, 21), (v1, 21), (v2, 21), (v3, 21), (v4, 21), (v5, 21), (v6, 21), (v7, 21)] [(v0, 21), (v1, 21), (v2, 21), (v3, 21), (v4, 21), (v5, 21), (v6, 21)] [] v7 21 147 rfl rfl hvs
      (by norm_num [List.map_cons, List.map_nil, List.sum_cons, List.sum_nil])
  obtain ⟨B0, R0, hU0, hB0, hR0⟩ :=
    streamT_decomp2 21 [(v0, 21), (v1, 21), (v2, 21), (v3, 21), (v4, 21), (v5, 21), (v6, 21), (v7, 21)] [] [(v2, 21), (v3, 21), (v4, 21), (v5, 21), (v6, 21), (v7, 21)] v0 v1 21 21 0 rfl rfl hvs
      (by norm_num [List.map_cons, List.map_nil, List.sum_cons, List.sum_nil])
  obtain ⟨B1, R1, hU1, hB1, hR1⟩ :=
    streamT_decomp2 21 [(v0, 21), (v1, 21), (v2, 21), (v3, 21), (v4, 21), (v5, 21), (v6, 21), (v7, 21)] [(v0, 21)] [(v3, 21), (v4, 21), (v5, 21), (v6, 21), (v7, 21)] v1 v2 21 21 21 rfl rfl hvs
      (by norm_num [List.map_cons, List.map_nil, List.sum_cons, List.sum_nil])
  obtain ⟨B2, R2, hU2, hB2, hR2⟩ :=
    streamT_decomp2 21 [(v0, 21), (v1, 21), (v2, 21), (v3, 21), (v4, 21), (v5, 21), (v6, 21), (v7, 21)] [(v0, 21), (v1, 21)] [(v4, 21), (v5, 21), (v6, 21), (v7, 21)] v2 v3 21 21 42 rfl rfl hvs
      (by norm_num [List.map_cons, List.map_nil, List.sum_cons, List.sum_nil])
  obtain ⟨B3, R3, hU3, hB3, hR3⟩ :=
    streamT_decomp2 21 [(v0, 21), (v1, 21), (v2, 21), (v3, 21), (v4, 21), (v5, 21), (v6, 21), (v7, 21)] [(v0, 21), (v1, 21), (v2, 21)] [(v5, 21), (v6, 21), (v7, 21)] v3 v4 21 21 63 rfl rfl hvs
      (by norm_num [List.map_cons, List.map_nil, List.sum_cons, List.sum_nil])
  obtain ⟨B4, R4, hU4, hB4, hR4⟩ :=
    streamT_decomp2 21 [(v0, 21), (v1, 21), (v2, 21), (v3, 21), (v4, 21), (v5, 21), (v6, 21), (v7, 21)] [(v0, 21), (v1, 21), (v2, 21), (v3, 21)] [(v6, 21), (v7, 21)] v4 v5 21 21 84 rfl rfl hvs
      (by norm_num [List.map_cons, List.map_nil, List.sum_cons, List.sum_nil])
  obtain ⟨B5, R5, hU5, hB5, hR5⟩ :=
    streamT_decomp2 21 [(v0, 21), (v1, 21), (v2, 21), (v3, 21), (v4, 21), (v5, 21), (v6, 21), (v7, 21)] [(v0, 21), (v1, 21), (v2, 21), (v3, 21), (v4, 21)] [(v7, 21)] v5 v6 21 21 105 rfl rfl hvs
      (by norm_num [List.map_cons, List.map_nil, List.sum_cons, List.sum_nil])
  obtain ⟨B6, R6, hU6, hB6, hR6⟩ :=
    streamT_decomp2 21 [(v0, 21), (v1, 21), (v2, 21), (v3, 21), (v4, 21), (v5, 21), (v6, 21), (v7, 21)] [(v0, 21), (v1, 21), (v2, 21), (v3, 21), (v4, 21), (v5, 21)] [] v6 v7 21 21 126 rfl rfl hvs
      (by norm_num [List.map_cons, List.map_nil, List.sum_cons, List.sum_nil])
  rw [key, key2]
  simp only [List.cons.injEq]
  refine ⟨?_, ?_, ?_, ?_, ?_, ?_, ?_, ?_, ?_, ?_, ?_, ?_, ?_, ?_, ?_, ?_, ?_, ?_, ?_, ?_, ?_, trivial⟩
  · rw [hT0]
    exact byteSpec_mid 21 A0 v0 S0 (8 * 21 - 0 - 21) 21 0 13 hA0 hS0
      (by norm_num) (by norm_num)
  · rw [hT0]
    exact byteSpec_mid 21 A0 v0 S0 (8 * 21 - 0 - 21) 21 1 5 hA0 hS0
      (by norm_num) (by norm_num)
  · rw [hU0]
    exact byteSpec_bnd 21 B0 v0 v1 R0 (8 * 21 - 0 - 21 - 21) 2 5 3 18 31 7 21 hB0 hv0 hv1 hR0
      (by norm_num) (by norm_num) (by norm_num) (by norm_num) (by norm_num)
  · rw [hT1]
    exact byteSpec_mid 21 A1 v1 S1 (8 * 21 - 21 - 21) 21 3 10 hA1 hS1
      (by norm_num) (by norm_num)
  · rw [hT1]
    exact byteSpec_mid 21 A1 v1 S1 (8 * 21 - 21 - 21) 21 4 2 hA1 hS1
      (by norm_num) (by norm_num)
  · rw [hU1]
    exact byteSpec_bnd 21 B1 v1 v2 R1 (8 * 21 - 21 - 21 - 21) 5 2 6 15 3 63 21 hB1 hv1 hv2 hR1
      (by norm_num) (by norm_num) (by norm_num) (by norm_num) (by norm_num)
  · rw [hT2]
    exact byteSpec_mid 21 A2 v2 S2 (8 * 21 - 42 - 21) 21 6 7 hA2 hS2
      (by norm_num) (by norm_num)
  · rw [hU2]
    exact byteSpec_bnd 21 B2 v2 v3 R2 (8 * 21 - 42 - 21 - 21) 7 7 1 20 127 1 21 hB2 hv2 hv3 hR2
      (by norm_num) (by norm_num) (by norm_num) (by norm_num) (by norm_num)
  · rw [hT3]
    exact byteSpec_mid 21 A3 v3 S3 (8 * 21 - 63 - 21) 21 8 12 hA3 hS3
      (by norm_num) (by norm_num)
  · rw [hT3]
    exact byteSpec_mid 21 A3 v3 S3 (8 * 21 - 63 - 21) 21 9 4 hA3 hS3
      (by norm_num) (by norm_num)
  · rw [hU3]
    exact byteSpec_bnd 21 B3 v3 v4 R3 (8 * 21 - 63 - 21 - 21) 10 4 4 17 15 15 21 hB3 hv3 hv4 hR3
      (by norm_num) (by norm_num) (by norm_num) (by norm_num) (by norm_num)
  · rw [hT4]
    exact byteSpec_mid 21 A4 v4 S4 (8 * 21 - 84 - 21) 21 11 9 hA4 hS4
      (by norm_num) (by norm_num)
  · rw [hT4]
    exact byteSpec_mid 21 A4 v4 S4 (8 * 21 - 84 - 21) 21 12 1 hA4 hS4
      (by norm_num) (by norm_num)
  · rw [hU4]
    exact byteSpec_bnd 21 B4 v4 v5 R4 (8 * 21 - 84 - 21 - 21) 13 1 7 14 1 127 21 hB4 hv4 hv5 hR4
      (by norm_num) (by norm_num) (by norm_num) (by norm_num) (by norm_num)
  · rw [hT5]
    exact byteSpec_mid 21 A5 v5 S5 (8 * 21 - 105 - 21) 21 14 6 hA5 hS5
      (by norm_num) (by norm_num)
  · rw [hU5]
    exact byteSpec_bnd 21 B5 v5 v6 R5 (8 * 21 - 105 - 21 - 21) 15 6 2 19 63 3 21 hB5 hv5 hv6 hR5
      (by norm_num) (by norm_num) (by norm_num) (by norm_num) (by norm_num)
  · rw [hT6]
    exact byteSpec_mid 21 A6 v6 S6 (8 * 21 - 126 - 21) 21 16 11 hA6 hS6
      (by norm_num) (by norm_num)
  · rw [hT6]
    exact byteSpec_mid 21 A6 v6 S6 (8 * 21 - 126 - 21) 21 17 3 hA6 hS6
      (by norm_num) (by norm_num)
  · rw [hU6]
    exact byteSpec_bnd 21 B6 v6 v7 R6 (8 * 21 - 126 - 21 - 21) 18 3 5 16 7 31 21 hB6 hv6 hv7 hR6
      (by norm_num) (by norm_num) (by norm_num) (by norm_num) (by norm_num)
  · rw [hT7]
    exact byteSpec_mid 21 A7 v7 S7 (8 * 21 - 147 - 21) 21 19 8 hA7 hS7
      (by norm_num) (by norm_num)
  · rw [hT7]
    exact byteSpec_mid0 21 A7 v7 S7 (8 * 21 - 147 - 21) 21 20 hA7 hS7
      (by norm_num) (by norm_num)

set_option maxRecDepth 16000 in
set_option maxHeartbeats 1000000 in
theorem c5_pack_eq_22 (v0 v1 v2 v3 v4 v5 v6 v7 : Nat) (hv0 : v0 < 2 ^ 22) (hv1 : v1 < 2 ^ 22) (hv2 : v2 < 2 ^ 22) (hv3 : v3 < 2 ^ 22) (hv4 : v4 < 2 ^ 22) (hv5 : v5 < 2 ^ 22) (hv6 : v6 < 2 ^ 22) (hv7 : v7 < 2 ^ 22) :
    (packSeq (BitPacker.new (List.replicate 22 0)) [(v0, 22), (v1, 22), (v2, 22), (v3, 22), (v4, 22), (v5, 22), (v6, 22), (v7, 22)]).bytes
      = pack_bits_22 v0 v1 v2 v3 v4 v5 v6 v7 := by
  have hvs : ∀ p ∈ ([(v0, 22), (v1, 22), (v2, 22), (v3, 22), (v4, 22), (v5, 22), (v6, 22), (v7, 22)] : List (Nat × Nat)), p.1 < 2 ^ p.2 := by
    intro p hp
    simp only [List.mem_cons, List.not_mem_nil, or_false] at hp
    rcases hp with rfl | rfl | rfl | rfl | rfl | rfl | rfl | rfl
    exacts [hv0, hv1, hv2, hv3, hv4, hv5, hv6, hv7]
  obtain ⟨-, -, -, ⟨hlen, hbytes⟩, -, -⟩ :=
    packSeq_inv 22 [(v0, 22), (v1, 22), (v2, 22), (v3, 22), (v4, 22), (v5, 22), (v6, 22), (v7, 22)] 0 0 _ hvs
      (by norm_num [List.map_cons, List.map_nil, List.sum_cons, List.sum_nil]) (packInv_init 22)
  have key : (packSeq (BitPacker.new (List.replicate 22 0)) [(v0, 22), (v1, 22), (v2, 22), (v3, 22), (v4, 22), (v5, 22), (v6, 22), (v7, 22)]).bytes
      = [ ByteSpec 22 (streamT 22 [(v0, 22), (v1, 22), (v2, 22), (v3, 22), (v4, 22), (v5, 22), (v6, 22), (v7, 22)] 0 0) 0,
          ByteSpec 22 (streamT 22 [(v0, 22), (v1, 22), (v2, 22), (v3, 22), (v4, 22), (v5, 22), (v6, 22), (v7, 22)] 0 0) 1,
          ByteSpec 22 (streamT 22 [(v0, 22), (v1, 22), (v2, 22), (v3, 22), (v4, 22), (v5, 22), (v6, 22), (v7, 22)] 0 0) 2,
          ByteSpec 22 (streamT 22 [(v0, 22), (v1, 22), (v2, 22), (v3, 22), (v4, 22), (v5, 22), (v6, 22), (v7, 22)] 0 0) 3,
          ByteSpec 22 (streamT 22 [(v0, 22), (v1, 22), (v2, 22), (v3, 22), (v4, 22), (v5, 22), (v6, 22), (v7, 22)] 0 0) 4,
          ByteSpec 22 (streamT 22 [(v0, 22), (v1, 22), (v2, 22), (v3, 22), (v4, 22), (v5, 22), (v6, 22), (v7, 22)] 0 0) 5,
          ByteSpec 22 (streamT 22 [(v0, 22), (v1, 22), (v2, 22), (v3, 22), (v4, 22), (v5, 22), (v6, 22), (v7, 22)] 0 0) 6,
          ByteSpec 22 (streamT 22 [(v0, 22), (v1, 22), (v2, 22), (v3, 22), (v4, 22), (v5, 22), (v6, 22), (v7, 22)] 0 0) 7,
          ByteSpec 22 (streamT 22 [(v0, 22), (v1, 22), (v2, 22), (v3, 22), (v4, 22), (v5, 22), (v6, 22), (v7, 22)] 0 0) 8,
          ByteSpec 22 (streamT 22 [(v0, 22), (v1, 22), (v2, 22), (v3, 22), (v4, 22), (v5, 22), (v6, 22), (v7, 22)] 0 0) 9,
          ByteSpec 22 (streamT 22 [(v0, 22), (v1, 22), (v2, 22), (v3, 22), (v4, 22), (v5, 22), (v6, 22), (v7, 22)] 0 0) 10,
          ByteSpec 22 (streamT 22 [(v0, 22), (v1, 22), (v2, 22), (v3, 22), (v4, 22), (v5, 22), (v6, 22), (v7, 22)] 0 0) 11,
          ByteSpec 22 (streamT 22 [(v0, 22), (v1, 22), (v2, 22), (v3, 22), (v4, 22), (v5, 22), (v6, 22), (v7, 22)] 0 0) 12,
          ByteSpec 22 (streamT 22 [(v0, 22), (v1, 22), (v2, 22), (v3, 22), (v4, 22), (v5, 22), (v6, 22), (v7, 22)] 0 0) 13,
          ByteSpec 22 (streamT 22 [(v0, 22), (v1, 22), (v2, 22), (v3, 22), (v4, 22), (v5, 22), (v6, 22), (v7, 22)] 0 0) 14,
          ByteSpec 22 (streamT 22 [(v0, 22), (v1, 22), (v2, 22), (v3, 22), (v4, 22), (v5, 22), (v6, 22), (v7, 22)] 0 0) 15,
          ByteSpec 22 (streamT 22 [(v0, 22), (v1, 22), (v2, 22), (v3, 22), (v4, 22), (v5, 22), (v6, 22), (v7, 22)] 0 0) 16,
          ByteSpec 22 (streamT 22 [(v0, 22), (v1, 22), (v2, 22), (v3, 22), (v4, 22), (v5, 22), (v6, 22), (v7, 22)] 0 0) 17,
          ByteSpec 22 (streamT 22 [(v0, 22), (v1, 22), (v2, 22), (v3, 22), (v4, 22), (v5, 22), (v6, 22), (v7, 22)] 0 0) 18,
          ByteSpec 22 (streamT 22 [(v0, 22), (v1, 22), (v2, 22), (v3, 22), (v4, 22), (v5, 22), (v6, 22), (v7, 22)] 0 0) 19,
          ByteSpec 22 (streamT 22 [(v0, 22), (v1, 22), (v2, 22), (v3, 22), (v4, 22), (v5, 22), (v6, 22), (v7, 22)] 0 0) 20,
          ByteSpec 22 (streamT 22 [(v0, 22), (v1, 22), (v2, 22), (v3, 22), (v4, 22), (v5, 22), (v6, 22), (v7, 22)] 0 0) 21 ] :=
    (list_eq_map_range_of_getD _ _ 22 hlen hbytes).trans (by rfl)
  have key2 : pack_bits_22 v0 v1 v2 v3 v4 v5 v6 v7
      = [ u8 (((v0 >>> 14) &&& 0xff)),
          u8 (((v0 >>> 6) &&& 0xff)),
          u8 (((((v0) &&& 0x3f) <<< 2) ||| ((v1 >>> 20) &&& 0x3))),
          u8 (((v1 >>> 12) &&& 0xff)),
          u8 (((v1 >>> 4) &&& 0xff)),
          u8 (((((v1) &&& 0xf) <<< 4) ||| ((v2 >>> 18) &&& 0xf))),
          u8 (((v2 >>> 10) &&& 0xff)),
          u8 (((v2 >>> 2) &&& 0xff)),
          u8 (((((v2) &&& 0x3) <<< 6) ||| ((v3 >>> 16) &&& 0x3f))),
          u8 (((v3 >>> 8) &&& 0xff)),
          u8 (((v3) &&& 0xff)),
          u8 (((v4 >>> 14) &&& 0xff)),
          u8 (((v4 >>> 6) &&& 0xff)),
          u8 (((((v4) &&& 0x3f) <<< 2) ||| ((v5 >>> 20) &&& 0x3))),
          u8 (((v5 >>> 12) &&& 0xff)),
          u8 (((v5 >>> 4) &&& 0xff)),
          u8 (((((v5) &&& 0xf) <<< 4) ||| ((v6 >>> 18) &&& 0xf))),
          u8 (((v6 >>> 10) &&& 0xff)),
          u8 (((v6 >>> 2) &&& 0xff)),
          u8 (((((v6) &&& 0x3) <<< 6) ||| ((v7 >>> 16) &&& 0x3f))),
          u8 (((v7 >>> 8) &&& 0xff)),
          u8 (((v7) &&& 0xff)) ] := rfl
  obtain ⟨A0, S0, hT0, hA0, hS0⟩ :=
    streamT_decomp 22 [(v0, 22), (v1, 22), (v2, 22), (v3, 22), (v4, 22), (v5, 22), (v6, 22), (v7, 22)] [] [(v1, 22), (v2, 22), (v3, 22), (v4, 22), (v5, 22), (v6, 22), (v7, 22)] v0 22 0 rfl rfl hvs
      (by norm_num [List.map_cons, List.map_nil, List.sum_cons, List.sum_nil])
  obtain ⟨A1, S1, hT1, hA1, hS1⟩ :=
    streamT_decomp 22 [(v0, 22), (v1, 22), (v2, 22), (v3, 22), (v4, 22), (v5, 22), (v6, 22), (v7, 22)] [(v0, 22)] [(v2, 22), (v3, 22), (v4, 22), (v5, 22), (v6, 22), (v7, 22)] v1 22 22 rfl rfl hvs
      (by norm_num [List.map_cons, List.map_nil, List.sum_cons, List.sum_nil])
  obtain ⟨A2, S2, hT2, hA2, hS2⟩ :=
    streamT_decomp 22 [(v0, 22), (v1, 22), (v2, 22), (v3, 22), (v4, 22), (v5, 22), (v6, 22), (v7, 22)] [(v0, 22), (v1, 22)] [(v3, 22), (v4, 22), (v5, 22), (v6, 22), (v7, 22)] v2 22 44 rfl rfl hvs
      (by norm_num [List.map_cons, List.map_nil, List.sum_cons, List.sum_nil])
  obtain ⟨A3, S3, hT3, hA3, hS3⟩ :=
    streamT_decomp 22 [(v0, 22), (v1, 22), (v2, 22), (v3, 22), (v4, 22), (v5, 22), (v6, 22), (v7, 22)] [(v0, 22), (v1, 22), (v2, 22)] [(v4, 22), (v5, 22), (v6, 22), (v7, 22)] v3 22 66 rfl rfl hvs
      (by norm_num [List.map_cons, List.map_nil, List.sum_cons, List.sum_nil])
  obtain ⟨A4, S4, hT4, hA4, hS4⟩ :=
    streamT_decomp 22 [(v0, 22), (v1, 22), (v2, 22), (v3, 22), (v4, 22), (v5, 22), (v6, 22), (v7, 22)] [(v0, 22), (v1, 22), (v2, 22), (v3, 22)] [(v5, 22), (v6, 22), (v7, 22)] v4 22 88 rfl rfl hvs
      (by norm_num [List.map_cons, List.map_nil, List.sum_cons, List.sum_nil])
  obtain ⟨A5, S5, hT5, hA5, hS5⟩ :=
    streamT_decomp 22 [(v0, 22), (v1, 22), (v2, 22), (v3, 22), (v4, 22), (v5, 22), (v6, 22), (v7, 22)] [(v0, 22), (v1, 22), (v2, 22), (v3, 22), (v4, 22)] [(v6, 22), (v7, 22)] v5 22 110 rfl rfl hvs
      (by norm_num [List.map_cons, List.map_nil, List.sum_cons, List.sum_nil])
  obtain ⟨A6, S6, hT6, hA6, hS6⟩ :=
    streamT_decomp 22 [(v0, 22), (v1, 22), (v2, 22), (v3, 22), (v4, 22), (v5, 22), (v6, 22), (v7, 22)] [(v0, 22), (v1, 22), (v2, 22), (v3, 22), (v4, 22), (v5, 22)] [(v7, 22)] v6 22 132 rfl rfl hvs
      (by norm_num [List.map_cons, List.map_nil, List.sum_cons, List.sum_nil])
  obtain ⟨A7, S7, hT7, hA7, hS7⟩ :=
    streamT_decomp 22 [(v0, 22), (v1, 22), (v2, 22), (v3, 22), (v4, 22), (v5, 22), (v6, 22), (v7, 22)] [(v0, 22), (v1, 22), (v2, 22), (v3, 22), (v4, 22), (v5, 22), (v6, 22)] [] v7 22 154 rfl rfl hvs
      (by norm_num [List.map_cons, List.map_nil, List.sum_cons, List.sum_nil])
  obtain ⟨B0, R0, hU0, hB0, hR0⟩ :=
    streamT_decomp2 22 [(v0, 22), (v1, 22), (v2, 22), (v3, 22), (v4, 22), (v5, 22), (v6, 22), (v7, 22)] [] [(v2, 22), (v3, 22), (v4, 22), (v5, 22), (v6, 22), (v7, 22)] v0 v1 22 22 0 rfl rfl hvs
      (by norm_num [List.map_cons, List.map_nil, List.sum_cons, List.sum_nil])
  obtain ⟨B1, R1, hU1, hB1, hR1⟩ :=
    streamT_decomp2 22 [(v0, 22), (v1, 22), (v2, 22), (v3, 22), (v4, 22), (v5, 22), (v6, 22), (v7, 22)] [(v0, 22)] [(v3, 22), (v4, 22), (v5, 22), (v6, 22), (v7, 22)] v1 v2 22 22 22 rfl rfl hvs
      (by norm_num [List.map_cons, List.map_nil, List.sum_cons, List.sum_nil])
  obtain ⟨B2, R2, hU2, hB2, hR2⟩ :=
    streamT_decomp2 22 [(v0, 22), (v1, 22), (v2, 22), (v3, 22), (v4, 22), (v5, 22), (v6, 22), (v7, 22)] [(v0, 22), (v1, 22)] [(v4, 22), (v5, 22), (v6, 22), (v7, 22)] v2 v3 22 22 44 rfl rfl hvs
      (by norm_num [List.map_cons, List.map_nil, List.sum_cons, List.sum_nil])
  obtain ⟨B4, R4, hU4, hB4, hR4⟩ :=
    streamT_decomp2 22 [(v0, 22), (v1, 22), (v2, 22), (v3, 22), (v4, 22), (v5, 22), (v6, 22), (v7, 22)] [(v0, 22), (v1, 22), (v2, 22), (v3, 22)] [(v6, 22), (v7, 22)] v4 v5 22 22 88 rfl rfl hvs
      (by norm_num [List.map_cons, List.map_nil, List.sum_cons, List.sum_nil])
  obtain ⟨B5, R5, hU5, hB5, hR5⟩ :=
    streamT_decomp2 22 [(v0, 22), (v1, 22), (v2, 22), (v3, 22), (v4, 22), (v5, 22), (v6, 22), (v7, 22)] [(v0, 22), (v1, 22), (v2, 22), (v3, 22), (v4, 22)] [(v7, 22)] v5 v6 22 22 110 rfl rfl hvs
      (by norm_num [List.map_cons, List.map_nil, List.sum_cons, List.sum_nil])
  obtain ⟨B6, R6, hU6, hB6, hR6⟩ :=
    streamT_decomp2 22 [(v0, 22), (v1, 22), (v2, 22), (v3, 22), (v4, 22), (v5, 22), (v6, 22), (v7, 22)] [(v0, 22), (v1, 22), (v2, 22), (v3, 22), (v4, 22), (v5, 22)] [] v6 v7 22 22 132 rfl rfl hvs
      (by norm_num [List.map_cons, List.map_nil, List.sum_cons, List.sum_nil])
  rw [key, key2]
  simp only [List.cons.injEq]
  refine ⟨?_, ?_, ?_, ?_, ?_, ?_, ?_, ?_, ?_, ?_, ?_, ?_, ?_, ?_, ?_, ?_, ?_, ?_, ?_, ?_, ?_, ?_, trivial⟩
  · rw [hT0]
    exact byteSpec_mid 22 A0 v0 S0 (8 * 22 - 0 - 22) 22 0 14 hA0 hS0
      (by norm_num) (by norm_num)
  · rw [hT0]
    exact byteSpec_mid 22 A0 v0 S0 (8 * 22 - 0 - 22) 22 1 6 hA0 hS0
      (by norm_num) (by norm_num)
  · rw [hU0]
    exact byteSpec_bnd 22 B0 v0 v1 R0 (8 * 22 - 0 - 22 - 22) 2 6 2 20 63 3 22 hB0 hv0 hv1 hR0
      (by norm_num) (by norm_num) (by norm_num) (by norm_num) (by norm_num)
  · rw [hT1]
    exact byteSpec_mid 22 A1 v1 S1 (8 * 22 - 22 - 22) 22 3 12 hA1 hS1
      (by norm_num) (by norm_num)
  · rw [hT1]
    exact byteSpec_mid 22 A1 v1 S1 (8 * 22 - 22 - 22) 22 4 4 hA1 hS1
      (by norm_num) (by norm_num)
  · rw [hU1]
    exact byteSpec_bnd 22 B1 v1 v2 R1 (8 * 22 - 22 - 22 - 22) 5 4 4 18 15 15 22 hB1 hv1 hv2 hR1
      (by norm_num) (by norm_num) (by norm_num) (by norm_num) (by norm_num)
  · rw [hT2]
    exact byteSpec_mid 22 A2 v2 S2 (8 * 22 - 44 - 22) 22 6 10 hA2 hS2
      (by norm_num) (by norm_num)
  · rw [hT2]
    exact byteSpec_mid 22 A2 v2 S2 (8 * 22 - 44 - 22) 22 7 2 hA2 hS2
      (by norm_num) (by norm_num)
  · rw [hU2]
    exact byteSpec_bnd 22 B2 v2 v3 R2 (8 * 22 - 44 - 22 - 22) 8 2 6 16 3 63 22 hB2 hv2 hv3 hR2
      (by norm_num) (by norm_num) (by norm_num) (by norm_num) (by norm_num)
  · rw [hT3]
    exact byteSpec_mid 22 A3 v3 S3 (8 * 22 - 66 - 22) 22 9 8 hA3 hS3
      (by norm_num) (by norm_num)
  · rw [hT3]
    exact byteSpec_mid0 22 A3 v3 S3 (8 * 22 - 66 - 22) 22 10 hA3 hS3
      (by norm_num) (by norm_num)
  · rw [hT4]
    exact byteSpec_mid 22 A4 v4 S4 (8 * 22 - 88 - 22) 22 11 14 hA4 hS4
      (by norm_num) (by norm_num)
  · rw [hT4]
    exact byteSpec_mid 22 A4 v4 S4 (8 * 22 - 88 - 22) 22 12 6 hA4 hS4
      (by norm_num) (by norm_num)
  · rw [hU4]
    exact byteSpec_bnd 22 B4 v4 v5 R4 (8 * 22 - 88 - 22 - 22) 13 6 2 20 63 3 22 hB4 hv4 hv5 hR4
      (by norm_num) (by norm_num) (by norm_num) (by norm_num) (by norm_num)
  · rw [hT5]
    exact byteSpec_mid 22 A5 v5 S5 (8 * 22 - 110 - 22) 22 14 12 hA5 hS5
      (by norm_num) (by norm_num)
  · rw [hT5]
    exact byteSpec_mid 22 A5 v5 S5 (8 * 22 - 110 - 22) 22 15 4 hA5 hS5
      (by norm_num) (by norm_num)
  · rw [hU5]
    exact byteSpec_bnd 22 B5 v5 v6 R5 (8 * 22 - 110 - 22 - 22) 16 4 4 18 15 15 22 hB5 hv5 hv6 hR5
      (by norm_num) (by norm_num) (by norm_num) (by norm_num) (by norm_num)
  · rw [hT6]
    exact byteSpec_mid 22 A6 v6 S6 (8 * 22 - 132 - 22) 22 17 10 hA6 hS6
      (by norm_num) (by norm_num)
  · rw [hT6]
    exact byteSpec_mid 22 A6 v6 S6 (8 * 22 - 132 - 22) 22 18 2 hA6 hS6
      (by norm_num) (by norm_num)
  · rw [hU6]
    exact byteSpec_bnd 22 B6 v6 v7 R6 (8 * 22 - 132 - 22 - 22) 19 2 6 16 3 63 22 hB6 hv6 hv7 hR6
      (by norm_num) (by norm_num) (by norm_num) (by norm_num) (by norm_num)
  · rw [hT7]
    exact byteSpec_mid 22 A7 v7 S7 (8 * 22 - 154 - 22) 22 20 8 hA7 hS7
      (by norm_num) (by norm_num)
  · rw [hT7]
    exact byteSpec_mid0 22 A7 v7 S7 (8 * 22 - 154 - 22) 22 21 hA7 hS7
      (by norm_num) (by norm_num)

set_option maxRecDepth 16000 in
set_option maxHeartbeats 1000000 in
theorem c5_pack_eq_23 (v0 v1 v2 v3 v4 v5 v6 v7 : Nat) (hv0 : v0 < 2 ^ 23) (hv1 : v1 < 2 ^ 23) (hv2 : v2 < 2 ^ 23) (hv3 : v3 < 2 ^ 23) (hv4 : v4 < 2 ^ 23) (hv5 : v5 < 2 ^ 23) (hv6 : v6 < 2 ^ 23) (hv7 : v7 < 2 ^ 23) :
    (packSeq (BitPacker.new (List.replicate 23 0)) [(v0, 23), (v1, 23), (v2, 23), (v3, 23), (v4, 23), (v5, 23), (v6, 23), (v7, 23)]).bytes
      = pack_bits_23 v0 v1 v2 v3 v4 v5 v6 v7 := by
  have hvs : ∀ p ∈ ([(v0, 23), (v1, 23), (v2, 23), (v3, 23), (v4, 23), (v5, 23), (v6, 23), (v7, 23)] : List (Nat × Nat)), p.1 < 2 ^ p.2 := by
    intro p hp
    simp only [List.mem_cons, List.not_mem_nil, or_false] at hp
    rcases hp with rfl | rfl | rfl | rfl | rfl | rfl | rfl | rfl
    exacts [hv0, hv1, hv2, hv3, hv4, hv5, hv6, hv7]
  obtain ⟨-, -, -, ⟨hlen, hbytes⟩, -, -⟩ :=
    packSeq_inv 23 [(v0, 23), (v1, 23), (v2, 23), (v3, 23), (v4, 23), (v5, 23), (v6, 23), (v7, 23)] 0 0 _ hvs
      (by norm_num [List.map_cons, List.map_nil, List.sum_cons, List.sum_nil]) (packInv_init 23)
  have key : (packSeq (BitPacker.new (List.replicate 23 0)) [(v0, 23), (v1, 23), (v2, 23), (v3, 23), (v4, 23), (v5, 23), (v6, 23), (v7, 23)]).bytes
      = [ ByteSpec 23 (streamT 23 [(v0, 23), (v1, 23), (v2, 23), (v3, 23), (v4, 23), (v5, 23), (v6, 23), (v7, 23)] 0 0) 0,
          ByteSpec 23 (streamT 23 [(v0, 23), (v1, 23), (v2, 23), (v3, 23), (v4, 23), (v5, 23), (v6, 23), (v7, 23)] 0 0) 1,
          ByteSpec 23 (streamT 23 [(v0, 23), (v1, 23), (v2, 23), (v3, 23), (v4, 23), (v5, 23), (v6, 23), (v7, 23)] 0 0) 2,
          ByteSpec 23 (streamT 23 [(v0, 23), (v1, 23), (v2, 23), (v3, 23), (v4, 23), (v5, 23), (v6, 23), (v7, 23)] 0 0) 3,
          ByteSpec 23 (streamT 23 [(v0, 23), (v1, 23), (v2, 23), (v3, 23), (v4, 23), (v5, 23), (v6, 23), (v7, 23)] 0 0) 4,
          ByteSpec 23 (streamT 23 [(v0, 23), (v1, 23), (v2, 23), (v3, 23), (v4, 23), (v5, 23), (v6, 23), (v7, 23)] 0 0) 5,
          ByteSpec 23 (streamT 23 [(v0, 23), (v1, 23), (v2, 23), (v3, 23), (v4, 23), (v5, 23), (v6, 23), (v7, 23)] 0 0) 6,
          ByteSpec 23 (streamT 23 [(v0, 23), (v1, 23), (v2, 23), (v3, 23), (v4, 23), (v5, 23), (v6, 23), (v7, 23)] 0 0) 7,
          ByteSpec 23 (streamT 23 [(v0, 23), (v1, 23), (v2, 23), (v3, 23), (v4, 23), (v5, 23), (v6, 23), (v7, 23)] 0 0) 8,
          ByteSpec 23 (streamT 23 [(v0, 23), (v1, 23), (v2, 23), (v3, 23), (v4, 23), (v5, 23), (v6, 23), (v7, 23)] 0 0) 9,
          ByteSpec 23 (streamT 23 [(v0, 23), (v1, 23), (v2, 23), (v3, 23), (v4, 23), (v5, 23), (v6, 23), (v7, 23)] 0 0) 10,
          ByteSpec 23 (streamT 23 [(v0, 23), (v1, 23), (v2, 23), (v3, 23), (v4, 23), (v5, 23), (v6, 23), (v7, 23)] 0 0) 11,
          ByteSpec 23 (streamT 23 [(v0, 23), (v1, 23), (v2, 23), (v3, 23), (v4, 23), (v5, 23), (v6, 23), (v7, 23)] 0 0) 12,
          ByteSpec 23 (streamT 23 [(v0, 23), (v1, 23), (v2, 23), (v3, 23), (v4, 23), (v5, 23), (v6, 23), (v7, 23)] 0 0) 13,
          ByteSpec 23 (streamT 23 [(v0, 23), (v1, 23), (v2, 23), (v3, 23), (v4, 23), (v5, 23), (v6, 23), (v7, 23)] 0 0) 14,
          ByteSpec 23 (streamT 23 [(v0, 23), (v1, 23), (v2, 23), (v3, 23), (v4, 23), (v5, 23), (v6, 23), (v7, 23)] 0 0) 15,
          ByteSpec 23 (streamT 23 [(v0, 23), (v1, 23), (v2, 23), (v3, 23), (v4, 23), (v5, 23), (v6, 23), (v7, 23)] 0 0) 16,
          ByteSpec 23 (streamT 23 [(v0, 23), (v1, 23), (v2, 23), (v3, 23), (v4, 23), (v5, 23), (v6, 23), (v7, 23)] 0 0) 17,
          ByteSpec 23 (streamT 23 [(v0, 23), (v1, 23), (v2, 23), (v3, 23), (v4, 23), (v5, 23), (v6, 23), (v7, 23)] 0 0) 18,
          ByteSpec 23 (streamT 23 [(v0, 23), (v1, 23), (v2, 23), (v3, 23), (v4, 23), (v5, 23), (v6, 23), (v7, 23)] 0 0) 19,
          ByteSpec 23 (streamT 23 [(v0, 23), (v1, 23), (v2, 23), (v3, 23), (v4, 23), (v5, 23), (v6, 23), (v7, 23)] 0 0) 20,
          ByteSpec 23 (streamT 23 [(v0, 23), (v1, 23), (v2, 23), (v3, 23), (v4, 23), (v5, 23), (v6, 23), (v7, 23)] 0 0) 21,
          ByteSpec 23 (streamT 23 [(v0, 23), (v1, 23), (v2, 23), (v3, 23), (v4, 23), (v5, 23), (v6, 23), (v7, 23)] 0 0) 22 ] :=
    (list_eq_map_range_of_getD _ _ 23 hlen hbytes).trans (by rfl)
  have key2 : pack_bits_23 v0 v1 v2 v3 v4 v5 v6 v7
      = [ u8 (((v0 >>> 15) &&& 0xff)),
          u8 (((v0 >>> 7) &&& 0xff)),
          u8 (((((v0) &&& 0x7f) <<< 1) ||| ((v1 >>> 22) &&& 0x1))),
          u8 (((v1 >>> 14) &&& 0xff)),
          u8 (((v1 >>> 6) &&& 0xff)),
          u8 (((((v1) &&& 0x3f) <<< 2) ||| ((v2 >>> 21) &&& 0x3))),
          u8 (((v2 >>> 13) &&& 0xff)),
          u8 (((v2 >>> 5) &&& 0xff)),
          u8 (((((v2) &&& 0x1f) <<< 3) ||| ((v3 >>> 20) &&& 0x7))),
          u8 (((v3 >>> 12) &&& 0xff)),
          u8 (((v3 >>> 4) &&& 0xff)),
          u8 (((((v3) &&& 0xf) <<< 4) ||| ((v4 >>> 19) &&& 0xf))),
          u8 (((v4 >>> 11) &&& 0xff)),
          u8 (((v4 >>> 3) &&& 0xff)),
          u8 (((((v4) &&& 0x7) <<< 5) ||| ((v5 >>> 18) &&& 0x1f))),
          u8 (((v5 >>> 10) &&& 0xff)),
          u8 (((v5 >>> 2) &&& 0xff)),
          u8 (((((v5) &&& 0x3) <<< 6) ||| ((v6 >>> 17) &&& 0x3f))),
          u8 (((v6 >>> 9) &&& 0xff)),
          u8 (((v6 >>> 1) &&& 0xff)),
          u8 (((((v6) &&& 0x1) <<< 7) ||| ((v7 >>> 16) &&& 0x7f))),
          u8 (((v7 >>> 8) &&& 0xff)),
          u8 (((v7) &&& 0xff)) ] := rfl
  obtain ⟨A0, S0, hT0, hA0, hS0⟩ :=
    streamT_decomp 23 [(v0, 23), (v1, 23), (v2, 23), (v3, 23), (v4, 23), (v5, 23), (v6, 23), (v7, 23)] [] [(v1, 23), (v2, 23), (v3, 23), (v4, 23), (v5, 23), (v6, 23), (v7, 23)] v0 23 0 rfl rfl hvs
      (by norm_num [List.map_cons, List.map_nil, List.sum_cons, List.sum_nil])
  obtain ⟨A1, S1, hT1, hA1, hS1⟩ :=
    streamT_decomp 23 [(v0, 23), (v1, 23), (v2, 23), (v3, 23), (v4, 23), (v5, 23), (v6, 23), (v7, 23)] [(v0, 23)] [(v2, 23), (v3, 23), (v4, 23), (v5, 23), (v6, 23), (v7, 23)] v1 23 23 rfl rfl hvs
      (by norm_num [List.map_cons, List.map_nil, List.sum_cons, List.sum_nil])
  obtain ⟨A2, S2, hT2, hA2, hS2⟩ :=
    streamT_decomp 23 [(v0, 23), (v1, 23), (v2, 23), (v3, 23), (v4, 23), (v5, 23), (v6, 23), (v7, 23)] [(v0, 23), (v1, 23)] [(v3, 23), (v4, 23), (v5, 23), (v6, 23), (v7, 23)] v2 23 46 rfl rfl hvs
      (by norm_num [List.map_cons, List.map_nil, List.sum_cons, List.sum_nil])
  obtain ⟨A3, S3, hT3, hA3, hS3⟩ :=
    streamT_decomp 23 [(v0, 23), (v1, 23), (v2, 23), (v3, 23), (v4, 23), (v5, 23), (v6, 23), (v7, 23)] [(v0, 23), (v1, 23), (v2, 23)] [(v4, 23), (v5, 23), (v6, 23), (v7, 23)] v3 23 69 rfl rfl hvs
      (by norm_num [List.map_cons, List.map_nil, List.sum_cons, List.sum_nil])
  obtain ⟨A4, S4, hT4, hA4, hS4⟩ :=
    streamT_decomp 23 [(v0, 23), (v1, 23), (v2, 23), (v3, 23), (v4, 23), (v5, 23), (v6, 23), (v7, 23)] [(v0, 23), (v1, 23), (v2, 23), (v3, 23)] [(v5, 23), (v6, 23), (v7, 23)] v4 23 92 rfl rfl hvs
      (by norm_num [List.map_cons, List.map_nil, List.sum_cons, List.sum_nil])
  obtain ⟨A5, S5, hT5, hA5, hS5⟩ :=
    streamT_decomp 23 [(v0, 23), (v1, 23), (v2, 23), (v3, 23), (v4, 23), (v5, 23), (v6, 23), (v7, 23)] [(v0, 23), (v1, 23), (v2, 23), (v3, 23), (v4, 23)] [(v6, 23), (v7, 23)] v5 23 115 rfl rfl hvs
      (by norm_num [List.map_cons, List.map_nil, List.sum_cons, List.sum_nil])
  obtain ⟨A6, S6, hT6, hA6, hS6⟩ :=
    streamT_decomp 23 [(v0, 23), (v1, 23), (v2, 23), (v3, 23), (v4, 23), (v5, 23), (v6, 23), (v7, 23)] [(v0, 23), (v1, 23), (v2, 23), (v3, 23), (v4, 23), (v5, 23)] [(v7, 23)] v6 23 138 rfl rfl hvs
      (by norm_num [List.map_cons, List.map_nil, List.sum_cons, List.sum_nil])
  obtain ⟨A7, S7, hT7, hA7, hS7⟩ :=
    streamT_decomp 23 [(v0, 23), (v1, 23), (v2, 23), (v3, 23), (v4, 23), (v5, 23), (v6, 23), (v7, 23)] [(v0, 23), (v1, 23), (v2, 23), (v3, 23), (v4, 23), (v5, 23), (v6, 23)] [] v7 23 161 rfl rfl hvs
      (by norm_num [List.map_cons, List.map_nil, List.sum_cons, List.sum_nil])
  obtain ⟨B0, R0, hU0, hB0, hR0⟩ :=
    streamT_decomp2 23 [(v0, 23), (v1, 23), (v2, 23), (v3, 23), (v4, 23), (v5, 23), (v6, 23), (v7, 23)] [] [(v2, 23), (v3, 23), (v4, 23), (v5, 23), (v6, 23), (v7, 23)] v0 v1 23 23 0 rfl rfl hvs
      (by norm_num [List.map_cons, List.map_nil, List.sum_cons, List.sum_nil])
  obtain ⟨B1, R1, hU1, hB1, hR1⟩ :=
    streamT_decomp2 23 [(v0, 23), (v1, 23), (v2, 23), (v3, 23), (v4, 23), (v5, 23), (v6, 23), (v7, 23)] [(v0, 23)] [(v3, 23), (v4, 23), (v5, 23), (v6, 23), (v7, 23)] v1 v2 23 23 23 rfl rfl hvs
      (by norm_num [List.map_cons, List.map_nil, List.sum_cons, List.sum_nil])
  obtain ⟨B2, R2, hU2, hB2, hR2⟩ :=
    streamT_decomp2 23 [(v0, 23), (v1, 23), (v2, 23), (v3, 23), (v4, 23), (v5, 23), (v6, 23), (v7, 23)] [(v0, 23), (v1, 23)] [(v4, 23), (v5, 23), (v6, 23), (v7, 23)] v2 v3 23 23 46 rfl rfl hvs
      (by norm_num [List.map_cons, List.map_nil, List.sum_cons, List.sum_nil])
  obtain ⟨B3, R3, hU3, hB3, hR3⟩ :=
    streamT_decomp2 23 [(v0, 23), (v1, 23), (v2, 23), (v3, 23), (v4, 23), (v5, 23), (v6, 23), (v7, 23)] [(v0, 23), (v1, 23), (v2, 23)] [(v5, 23), (v6, 23), (v7, 23)] v3 v4 23 23 69 rfl rfl hvs
      (by norm_num [List.map_cons, List.map_nil, List.sum_cons, List.sum_nil])
  obtain ⟨B4, R4, hU4, hB4, hR4⟩ :=
    streamT_decomp2 23 [(v0, 23), (v1, 23), (v2, 23), (v3, 23), (v4, 23), (v5, 23), (v6, 23), (v7, 23)] [(v0, 23), (v1, 23), (v2, 23), (v3, 23)] [(v6, 23), (v7, 23)] v4 v5 23 23 92 rfl rfl hvs
      (by norm_num [List.map_cons, List.map_nil, List.sum_cons, List.sum_nil])
  obtain ⟨B5, R5, hU5, hB5, hR5⟩ :=
    streamT_decomp2 23 [(v0, 23), (v1, 23), (v2, 23), (v3, 23), (v4, 23), (v5, 23), (v6, 23), (v7, 23)] [(v0, 23), (v1, 23), (v2, 23), (v3, 23), (v4, 23)] [(v7, 23)] v5 v6 23 23 115 rfl rfl hvs
      (by norm_num [List.map_cons, List.map_nil, List.sum_cons, List.sum_nil])
  obtain ⟨B6, R6, hU6, hB6, hR6⟩ :=
    streamT_decomp2 23 [(v0, 23), (v1, 23), (v2, 23), (v3, 23), (v4, 23), (v5, 23), (v6, 23), (v7, 23)] [(v0, 23), (v1, 23), (v2, 23), (v3, 23), (v4, 23), (v5, 23)] [] v6 v7 23 23 138 rfl rfl hvs
      (by norm_num [List.map_cons, List.map_nil, List.sum_cons, List.sum_nil])
  rw [key, key2]
  simp only [List.cons.injEq]
  refine ⟨?_, ?_, ?_, ?_, ?_, ?_, ?_, ?_, ?_, ?_, ?_, ?_, ?_, ?_, ?_, ?_, ?_, ?_, ?_, ?_, ?_, ?_, ?_, trivial⟩
  · rw [hT0]
    exact byteSpec_mid 23 A0 v0 S0 (8 * 23 - 0 - 23) 23 0 15 hA0 hS0
      (by norm_num) (by norm_num)
  · rw [hT0]
    exact byteSpec_mid 23 A0 v0 S0 (8 * 23 - 0 - 23) 23 1 7 hA0 hS0
      (by norm_num) (by norm_num)
  · rw [hU0]
    exact byteSpec_bnd 23 B0 v0 v1 R0 (8 * 23 - 0 - 23 - 23) 2 7 1 22 127 1 23 hB0 hv0 hv1 hR0
      (by norm_num) (by norm_num) (by norm_num) (by norm_num) (by norm_num)
  · rw [hT1]
    exact byteSpec_mid 23 A1 v1 S1 (8 * 23 - 23 - 23) 23 3 14 hA1 hS1
      (by norm_num) (by norm_num)
  · rw [hT1]
    exact byteSpec_mid 23 A1 v1 S1 (8 * 23 - 23 - 23) 23 4 6 hA1 hS1
      (by norm_num) (by norm_num)
  · rw [hU1]
    exact byteSpec_bnd 23 B1 v1 v2 R1 (8 * 23 - 23 - 23 - 23) 5 6 2 21 63 3 23 hB1 hv1 hv2 hR1
      (by norm_num) (by norm_num) (by norm_num) (by norm_num) (by norm_num)
  · rw [hT2]
    exact byteSpec_mid 23 A2 v2 S2 (8 * 23 - 46 - 23) 23 6 13 hA2 hS2
      (by norm_num) (by norm_num)
  · rw [hT2]
    exact byteSpec_mid 23 A2 v2 S2 (8 * 23 - 46 - 23) 23 7 5 hA2 hS2
      (by norm_num) (by norm_num)
  · rw [hU2]
    exact byteSpec_bnd 23 B2 v2 v3 R2 (8 * 23 - 46 - 23 - 23) 8 5 3 20 31 7 23 hB2 hv2 hv3 hR2
      (by norm_num) (by norm_num) (by norm_num) (by norm_num) (by norm_num)
  · rw [hT3]
    exact byteSpec_mid 23 A3 v3 S3 (8 * 23 - 69 - 23) 23 9 12 hA3 hS3
      (by norm_num) (by norm_num)
  · rw [hT3]
    exact byteSpec_mid 23 A3 v3 S3 (8 * 23 - 69 - 23) 23 10 4 hA3 hS3
      (by norm_num) (by norm_num)
  · rw [hU3]
    exact byteSpec_bnd 23 B3 v3 v4 R3 (8 * 23 - 69 - 23 - 23) 11 4 4 19 15 15 23 hB3 hv3 hv4 hR3
      (by norm_num) (by norm_num) (by norm_num) (by norm_num) (by norm_num)
  · rw [hT4]
    exact byteSpec_mid 23 A4 v4 S4 (8 * 23 - 92 - 23) 23 12 11 hA4 hS4
      (by norm_num) (by norm_num)
  · rw [hT4]
    exact byteSpec_mid 23 A4 v4 S4 (8 * 23 - 92 - 23) 23 13 3 hA4 hS4
      (by norm_num) (by norm_num)
  · rw [hU4]
    exact byteSpec_bnd 23 B4 v4 v5 R4 (8 * 23 - 92 - 23 - 23) 14 3 5 18 7 31 23 hB4 hv4 hv5 hR4
      (by norm_num) (by norm_num) (by norm_num) (by norm_num) (by norm_num)
  · rw [hT5]
    exact byteSpec_mid 23 A5 v5 S5 (8 * 23 - 115 - 23) 23 15 10 hA5 hS5
      (by norm_num) (by norm_num)
  · rw [hT5]
    exact byteSpec_mid 23 A5 v5 S5 (8 * 23 - 115 - 23) 23 16 2 hA5 hS5
      (by norm_num) (by norm_num)
  · rw [hU5]
    exact byteSpec_bnd 23 B5 v5 v6 R5 (8 * 23 - 115 - 23 - 23) 17 2 6 17 3 63 23 hB5 hv5 hv6 hR5
      (by norm_num) (by norm_num) (by norm_num) (by norm_num) (by norm_num)
  · rw [hT6]
    exact byteSpec_mid 23 A6 v6 S6 (8 * 23 - 138 - 23) 23 18 9 hA6 hS6
      (by norm_num) (by norm_num)
  · rw [hT6]
    exact byteSpec_mid 23 A6 v6 S6 (8 * 23 - 138 - 23) 23 19 1 hA6 hS6
      (by norm_num) (by norm_num)
  · rw [hU6]
    exact byteSpec_bnd 23 B6 v6 v7 R6 (8 * 23 - 138 - 23 - 23) 20 1 7 16 1 127 23 hB6 hv6 hv7 hR6
      (by norm_num) (by norm_num) (by norm_num) (by norm_num) (by norm_num)
  · rw [hT7]
    exact byteSpec_mid 23 A7 v7 S7 (8 * 23 - 161 - 23) 23 21 8 hA7 hS7
      (by norm_num) (by norm_num)
  · rw [hT7]
    exact byteSpec_mid0 23 A7 v7 S7 (8 * 23 - 161 - 23) 23 22 hA7 hS7
      (by norm_num) (by norm_num)

set_option maxRecDepth 16000 in
set_option maxHeartbeats 1000000 in
theorem c5_pack_eq_24 (v0 v1 v2 v3 v4 v5 v6 v7 : Nat) (hv0 : v0 < 2 ^ 24) (hv1 : v1 < 2 ^ 24) (hv2 : v2 < 2 ^ 24) (hv3 : v3 < 2 ^ 24) (hv4 : v4 < 2 ^ 24) (hv5 : v5 < 2 ^ 24) (hv6 : v6 < 2 ^ 24) (hv7 : v7 < 2 ^ 24) :
    (packSeq (BitPacker.new (List.replicate 24 0)) [(v0, 24), (v1, 24), (v2, 24), (v3, 24), (v4, 24), (v5, 24), (v6, 24), (v7, 24)]).bytes
      = pack_bits_24 v0 v1 v2 v3 v4 v5 v6 v7 := by
  have hvs : ∀ p ∈ ([(v0, 24), (v1, 24), (v2, 24), (v3, 24), (v4, 24), (v5, 24), (v6, 24), (v7, 24)] : List (Nat × Nat)), p.1 < 2 ^ p.2 := by
    intro p hp
    simp only [List.mem_cons, List.not_mem_nil, or_false] at hp
    rcases hp with rfl | rfl | rfl | rfl | rfl | rfl | rfl | rfl
    exacts [hv0, hv1, hv2, hv3, hv4, hv5, hv6, hv7]
  obtain ⟨-, -, -, ⟨hlen, hbytes⟩, -, -⟩ :=
    packSeq_inv 24 [(v0, 24), (v1, 24), (v2, 24), (v3, 24), (v4, 24), (v5, 24), (v6, 24), (v7, 24)] 0 0 _ hvs
      (by norm_num [List.map_cons, List.map_nil, List.sum_cons, List.sum_nil]) (packInv_init 24)
  have key : (packSeq (BitPacker.new (List.replicate 24 0)) [(v0, 24), (v1, 24), (v2, 24), (v3, 24), (v4, 24), (v5, 24), (v6, 24), (v7, 24)]).bytes
      = [ ByteSpec 24 (streamT 24 [(v0, 24), (v1, 24), (v2, 24), (v3, 24), (v4, 24), (v5, 24), (v6, 24), (v7, 24)] 0 0) 0,
          ByteSpec 24 (streamT 24 [(v0, 24), (v1, 24), (v2, 24), (v3, 24), (v4, 24), (v5, 24), (v6, 24), (v7, 24)] 0 0) 1,
          ByteSpec 24 (streamT 24 [(v0, 24), (v1, 24), (v2, 24), (v3, 24), (v4, 24), (v5, 24), (v6, 24), (v7, 24)] 0 0) 2,
          ByteSpec 24 (streamT 24 [(v0, 24), (v1, 24), (v2, 24), (v3, 24), (v4, 24), (v5, 24), (v6, 24), (v7, 24)] 0 0) 3,
          ByteSpec 24 (streamT 24 [(v0, 24), (v1, 24), (v2, 24), (v3, 24), (v4, 24), (v5, 24), (v6, 24), (v7, 24)] 0 0) 4,
          ByteSpec 24 (streamT 24 [(v0, 24), (v1, 24), (v2, 24), (v3, 24), (v4, 24), (v5, 24), (v6, 24), (v7, 24)] 0 0) 5,
          ByteSpec 24 (streamT 24 [(v0, 24), (v1, 24), (v2, 24), (v3, 24), (v4, 24), (v5, 24), (v6, 24), (v7, 24)] 0 0) 6,
          ByteSpec 24 (streamT 24 [(v0, 24), (v1, 24), (v2, 24), (v3, 24), (v4, 24), (v5, 24), (v6, 24), (v7, 24)] 0 0) 7,
          ByteSpec 24 (streamT 24 [(v0, 24), (v1, 24), (v2, 24), (v3, 24), (v4, 24), (v5, 24), (v6, 24), (v7, 24)] 0 0) 8,
          ByteSpec 24 (streamT 24 [(v0, 24), (v1, 24), (v2, 24), (v3, 24), (v4, 24), (v5, 24), (v6, 24), (v7, 24)] 0 0) 9,
          ByteSpec 24 (streamT 24 [(v0, 24), (v1, 24), (v2, 24), (v3, 24), (v4, 24), (v5, 24), (v6, 24), (v7, 24)] 0 0) 10,
          ByteSpec 24 (streamT 24 [(v0, 24), (v1, 24), (v2, 24), (v3, 24), (v4, 24), (v5, 24), (v6, 24), (v7, 24)] 0 0) 11,
          ByteSpec 24 (streamT 24 [(v0, 24), (v1, 24), (v2, 24), (v3, 24), (v4, 24), (v5, 24), (v6, 24), (v7, 24)] 0 0) 12,
          ByteSpec 24 (streamT 24 [(v0, 24), (v1, 24), (v2, 24), (v3, 24), (v4, 24), (v5, 24), (v6, 24), (v7, 24)] 0 0) 13,
          ByteSpec 24 (streamT 24 [(v0, 24), (v1, 24), (v2, 24), (v3, 24), (v4, 24), (v5, 24), (v6, 24), (v7, 24)] 0 0) 14,
          ByteSpec 24 (streamT 24 [(v0, 24), (v1, 24), (v2, 24), (v3, 24), (v4, 24), (v5, 24), (v6, 24), (v7, 24)] 0 0) 15,
          ByteSpec 24 (streamT 24 [(v0, 24), (v1, 24), (v2, 24), (v3, 24), (v4, 24), (v5, 24), (v6, 24), (v7, 24)] 0 0) 16,
          ByteSpec 24 (streamT 24 [(v0, 24), (v1, 24), (v2, 24), (v3, 24), (v4, 24), (v5, 24), (v6, 24), (v7, 24)] 0 0) 17,
          ByteSpec 24 (streamT 24 [(v0, 24), (v1, 24), (v2, 24), (v3, 24), (v4, 24), (v5, 24), (v6, 24), (v7, 24)] 0 0) 18,
          ByteSpec 24 (streamT 24 [(v0, 24), (v1, 24), (v2, 24), (v3, 24), (v4, 24), (v5, 24), (v6, 24), (v7, 24)] 0 0) 19,
          ByteSpec 24 (streamT 24 [(v0, 24), (v1, 24), (v2, 24), (v3, 24), (v4, 24), (v5, 24), (v6, 24), (v7, 24)] 0 0) 20,
          ByteSpec 24 (streamT 24 [(v0, 24), (v1, 24), (v2, 24), (v3, 24), (v4, 24), (v5, 24), (v6, 24), (v7, 24)] 0 0) 21,
          ByteSpec 24 (streamT 24 [(v0, 24), (v1, 24), (v2, 24), (v3, 24), (v4, 24), (v5, 24), (v6, 24), (v7, 24)] 0 0) 22,
          ByteSpec 24 (streamT 24 [(v0, 24), (v1, 24), (v2, 24), (v3, 24), (v4, 24), (v5, 24), (v6, 24), (v7, 24)] 0 0) 23 ] :=
    (list_eq_map_range_of_getD _ _ 24 hlen hbytes).trans (by rfl)
  have key2 : pack_bits_24 v0 v1 v2 v3 v4 v5 v6 v7
      = [ u8 (((v0 >>> 16) &&& 0xff)),
          u8 (((v0 >>> 8) &&& 0xff)),
          u8 (((v0) &&& 0xff)),
          u8 (((v1 >>> 16) &&& 0xff)),
          u8 (((v1 >>> 8) &&& 0xff)),
          u8 (((v1) &&& 0xff)),
          u8 (((v2 >>> 16) &&& 0xff)),
          u8 (((v2 >>> 8) &&& 0xff)),
          u8 (((v2) &&& 0xff)),
          u8 (((v3 >>> 16) &&& 0xff)),
          u8 (((v3 >>> 8) &&& 0xff)),
          u8 (((v3) &&& 0xff)),
          u8 (((v4 >>> 16) &&& 0xff)),
          u8 (((v4 >>> 8) &&& 0xff)),
          u8 (((v4) &&& 0xff)),
          u8 (((v5 >>> 16) &&& 0xff)),
          u8 (((v5 >>> 8) &&& 0xff)),
          u8 (((v5) &&& 0xff)),
          u8 (((v6 >>> 16) &&& 0xff)),
          u8 (((v6 >>> 8) &&& 0xff)),
          u8 (((v6) &&& 0xff)),
          u8 (((v7 >>> 16) &&& 0xff)),
          u8 (((v7 >>> 8) &&& 0xff)),
          u8 (((v7) &&& 0xff)) ] := rfl
  obtain ⟨A0, S0, hT0, hA0, hS0⟩ :=
    streamT_decomp 24 [(v0, 24), (v1, 24), (v2, 24), (v3, 24), (v4, 24), (v5, 24), (v6, 24), (v7, 24)] [] [(v1, 24), (v2, 24), (v3, 24), (v4, 24), (v5, 24), (v6, 24), (v7, 24)] v0 24 0 rfl rfl hvs
      (by norm_num [List.map_cons, List.map_nil, List.sum_cons, List.sum_nil])
  obtain ⟨A1, S1, hT1, hA1, hS1⟩ :=
    streamT_decomp 24 [(v0, 24), (v1, 24), (v2, 24), (v3, 24), (v4, 24), (v5, 24), (v6, 24), (v7, 24)] [(v0, 24)] [(v2, 24), (v3, 24), (v4, 24), (v5, 24), (v6, 24), (v7, 24)] v1 24 24 rfl rfl hvs
      (by norm_num [List.map_cons, List.map_nil, List.sum_cons, List.sum_nil])
  obtain ⟨A2, S2, hT2, hA2, hS2⟩ :=
    streamT_decomp 24 [(v0, 24), (v1, 24), (v2, 24), (v3, 24), (v4, 24), (v5, 24), (v6, 24), (v7, 24)] [(v0, 24), (v1, 24)] [(v3, 24), (v4, 24), (v5, 24), (v6, 24), (v7, 24)] v2 24 48 rfl rfl hvs
      (by norm_num [List.map_cons, List.map_nil, List.sum_cons, List.sum_nil])
  obtain ⟨A3, S3, hT3, hA3, hS3⟩ :=
    streamT_decomp 24 [(v0, 24), (v1, 24), (v2, 24), (v3, 24), (v4, 24), (v5, 24), (v6, 24), (v7, 24)] [(v0, 24), (v1, 24), (v2, 24)] [(v4, 24), (v5, 24), (v6, 24), (v7, 24)] v3 24 72 rfl rfl hvs
      (by norm_num [List.map_cons, List.map_nil, List.sum_cons, List.sum_nil])
  obtain ⟨A4, S4, hT4, hA4, hS4⟩ :=
    streamT_decomp 24 [(v0, 24), (v1, 24), (v2, 24), (v3, 24), (v4, 24), (v5, 24), (v6, 24), (v7, 24)] [(v0, 24), (v1, 24), (v2, 24), (v3, 24)] [(v5, 24), (v6, 24), (v7, 24)] v4 24 96 rfl rfl hvs
      (by norm_num [List.map_cons, List.map_nil, List.sum_cons, List.sum_nil])
  obtain ⟨A5, S5, hT5, hA5, hS5⟩ :=
    streamT_decomp 24 [(v0, 24), (v1, 24), (v2, 24), (v3, 24), (v4, 24), (v5, 24), (v6, 24), (v7, 24)] [(v0, 24), (v1, 24), (v2, 24), (v3, 24), (v4, 24)] [(v6, 24), (v7, 24)] v5 24 120 rfl rfl hvs
      (by norm_num [List.map_cons, List.map_nil, List.sum_cons, List.sum_nil])
  obtain ⟨A6, S6, hT6, hA6, hS6⟩ :=
    streamT_decomp 24 [(v0, 24), (v1, 24), (v2, 24), (v3, 24), (v4, 24), (v5, 24), (v6, 24), (v7, 24)] [(v0, 24), (v1, 24), (v2, 24), (v3, 24), (v4, 24), (v5, 24)] [(v7, 24)] v6 24 144 rfl rfl hvs
      (by norm_num [List.map_cons, List.map_nil, List.sum_cons, List.sum_nil])
  obtain ⟨A7, S7, hT7, hA7, hS7⟩ :=
    streamT_decomp 24 [(v0, 24), (v1, 24), (v2, 24), (v3, 24), (v4, 24), (v5, 24), (v6, 24), (v7, 24)] [(v0, 24), (v1, 24), (v2, 24), (v3, 24), (v4, 24), (v5, 24), (v6, 24)] [] v7 24 168 rfl rfl hvs
      (by norm_num [List.map_cons, List.map_nil, List.sum_cons, List.sum_nil])
  rw [key, key2]
  simp only [List.cons.injEq]
  refine ⟨?_, ?_, ?_, ?_, ?_, ?_, ?_, ?_, ?_, ?_, ?_, ?_, ?_, ?_, ?_, ?_, ?_, ?_, ?_, ?_, ?_, ?_, ?_, ?_, trivial⟩
  · rw [hT0]
    exact byteSpec_mid 24 A0 v0 S0 (8 * 24 - 0 - 24) 24 0 16 hA0 hS0
      (by norm_num) (by norm_num)
  · rw [hT0]
    exact byteSpec_mid 24 A0 v0 S0 (8 * 24 - 0 - 24) 24 1 8 hA0 hS0
      (by norm_num) (by norm_num)
  · rw [hT0]
    exact byteSpec_mid0 24 A0 v0 S0 (8 * 24 - 0 - 24) 24 2 hA0 hS0
      (by norm_num) (by norm_num)
  · rw [hT1]
    exact byteSpec_mid 24 A1 v1 S1 (8 * 24 - 24 - 24) 24 3 16 hA1 hS1
      (by norm_num) (by norm_num)
  · rw [hT1]
    exact byteSpec_mid 24 A1 v1 S1 (8 * 24 - 24 - 24) 24 4 8 hA1 hS1
      (by norm_num) (by norm_num)
  · rw [hT1]
    exact byteSpec_mid0 24 A1 v1 S1 (8 * 24 - 24 - 24) 24 5 hA1 hS1
      (by norm_num) (by norm_num)
  · rw [hT2]
    exact byteSpec_mid 24 A2 v2 S2 (8 * 24 - 48 - 24) 24 6 16 hA2 hS2
      (by norm_num) (by norm_num)
  · rw [hT2]
    exact byteSpec_mid 24 A2 v2 S2 (8 * 24 - 48 - 24) 24 7 8 hA2 hS2
      (by norm_num) (by norm_num)
  · rw [hT2]
    exact byteSpec_mid0 24 A2 v2 S2 (8 * 24 - 48 - 24) 24 8 hA2 hS2
      (by norm_num) (by norm_num)
  · rw [hT3]
    exact byteSpec_mid 24 A3 v3 S3 (8 * 24 - 72 - 24) 24 9 16 hA3 hS3
      (by norm_num) (by norm_num)
  · rw [hT3]
    exact byteSpec_mid 24 A3 v3 S3 (8 * 24 - 72 - 24) 24 10 8 hA3 hS3
      (by norm_num) (by norm_num)
  · rw [hT3]
    exact byteSpec_mid0 24 A3 v3 S3 (8 * 24 - 72 - 24) 24 11 hA3 hS3
      (by norm_num) (by norm_num)
  · rw [hT4]
    exact byteSpec_mid 24 A4 v4 S4 (8 * 24 - 96 - 24) 24 12 16 hA4 hS4
      (by norm_num) (by norm_num)
  · rw [hT4]
    exact byteSpec_mid 24 A4 v4 S4 (8 * 24 - 96 - 24) 24 13 8 hA4 hS4
      (by norm_num) (by norm_num)
  · rw [hT4]
    exact byteSpec_mid0 24 A4 v4 S4 (8 * 24 - 96 - 24) 24 14 hA4 hS4
      (by norm_num) (by norm_num)
  · rw [hT5]
    exact byteSpec_mid 24 A5 v5 S5 (8 * 24 - 120 - 24) 24 15 16 hA5 hS5
      (by norm_num) (by norm_num)
  · rw [hT5]
    exact byteSpec_mid 24 A5 v5 S5 (8 * 24 - 120 - 24) 24 16 8 hA5 hS5
      (by norm_num) (by norm_num)
  · rw [hT5]
    exact byteSpec_mid0 24 A5 v5 S5 (8 * 24 - 120 - 24) 24 17 hA5 hS5
      (by norm_num) (by norm_num)
  · rw [hT6]
    exact byteSpec_mid 24 A6 v6 S6 (8 * 24 - 144 - 24) 24 18 16 hA6 hS6
      (by norm_num) (by norm_num)
  · rw [hT6]
    exact byteSpec_mid 24 A6 v6 S6 (8 * 24 - 144 - 24) 24 19 8 hA6 hS6
      (by norm_num) (by norm_num)
  · rw [hT6]
    exact byteSpec_mid0 24 A6 v6 S6 (8 * 24 - 144 - 24) 24 20 hA6 hS6
      (by norm_num) (by norm_num)
  · rw [hT7]
    exact byteSpec_mid 24 A7 v7 S7 (8 * 24 - 168 - 24) 24 21 16 hA7 hS7
      (by norm_num) (by norm_num)
  · rw [hT7]
    exact byteSpec_mid 24 A7 v7 S7 (8 * 24 - 168 - 24) 24 22 8 hA7 hS7
      (by norm_num) (by norm_num)
  · rw [hT7]
    exact byteSpec_mid0 24 A7 v7 S7 (8 * 24 - 168 - 24) 24 23 hA7 hS7
      (by norm_num) (by norm_num)

set_option maxRecDepth 16000 in
set_option maxHeartbeats 1000000 in
theorem c5_pack_eq_25 (v0 v1 v2 v3 v4 v5 v6 v7 : Nat) (hv0 : v0 < 2 ^ 25) (hv1 : v1 < 2 ^ 25) (hv2 : v2 < 2 ^ 25) (hv3 : v3 < 2 ^ 25) (hv4 : v4 < 2 ^ 25) (hv5 : v5 < 2 ^ 25) (hv6 : v6 < 2 ^ 25) (hv7 : v7 < 2 ^ 25) :
    (packSeq (BitPacker.new (List.replicate 25 0)) [(v0, 25), (v1, 25), (v2, 25), (v3, 25), (v4, 25), (v5, 25), (v6, 25), (v7, 25)]).bytes
      = pack_bits_25 v0 v1 v2 v3 v4 v5 v6 v7 := by
  have hvs : ∀ p ∈ ([(v0, 25), (v1, 25), (v2, 25), (v3, 25), (v4, 25), (v5, 25), (v6, 25), (v7, 25)] : List (Nat × Nat)), p.1 < 2 ^ p.2 := by
    intro p hp
    simp only [List.mem_cons, List.not_mem_nil, or_false] at hp
    rcases hp with rfl | rfl | rfl | rfl | rfl | rfl | rfl | rfl
    exacts [hv0, hv1, hv2, hv3, hv4, hv5, hv6, hv7]
  obtain ⟨-, -, -, ⟨hlen, hbytes⟩, -, -⟩ :=
    packSeq_inv 25 [(v0, 25), (v1, 25), (v2, 25), (v3, 25), (v4, 25), (v5, 25), (v6, 25), (v7, 25)] 0 0 _ hvs
      (by norm_num [List.map_cons, List.map_nil, List.sum_cons, List.sum_nil]) (packInv_init 25)
  have key : (packSeq (BitPacker.new (List.replicate 25 0)) [(v0, 25), (v1, 25), (v2, 25), (v3, 25), (v4, 25), (v5, 25), (v6, 25), (v7, 25)]).bytes
      = [ ByteSpec 25 (streamT 25 [(v0, 25), (v1, 25), (v2, 25), (v3, 25), (v4, 25), (v5, 25), (v6, 25), (v7, 25)] 0 0) 0,
          ByteSpec 25 (streamT 25 [(v0, 25), (v1, 25), (v2, 25), (v3, 25), (v4, 25), (v5, 25), (v6, 25), (v7, 25)] 0 0) 1,
          ByteSpec 25 (streamT 25 [(v0, 25), (v1, 25), (v2, 25), (v3, 25), (v4, 25), (v5, 25), (v6, 25), (v7, 25)] 0 0) 2,
          ByteSpec 25 (streamT 25 [(v0, 25), (v1, 25), (v2, 25), (v3, 25), (v4, 25), (v5, 25), (v6, 25), (v7, 25)] 0 0) 3,
          ByteSpec 25 (streamT 25 [(v0, 25), (v1, 25), (v2, 25), (v3, 25), (v4, 25), (v5, 25), (v6, 25), (v7, 25)] 0 0) 4,
          ByteSpec 25 (streamT 25 [(v0, 25), (v1, 25), (v2, 25), (v3, 25), (v4, 25), (v5, 25), (v6, 25), (v7, 25)] 0 0) 5,
          ByteSpec 25 (streamT 25 [(v0, 25), (v1, 25), (v2, 25), (v3, 25), (v4, 25), (v5, 25), (v6, 25), (v7, 25)] 0 0) 6,
          ByteSpec 25 (streamT 25 [(v0, 25), (v1, 25), (v2, 25), (v3, 25), (v4, 25), (v5, 25), (v6, 25), (v7, 25)] 0 0) 7,
          ByteSpec 25 (streamT 25 [(v0, 25), (v1, 25), (v2, 25), (v3, 25), (v4, 25), (v5, 25), (v6, 25), (v7, 25)] 0 0) 8,
          ByteSpec 25 (streamT 25 [(v0, 25), (v1, 25), (v2, 25), (v3, 25), (v4, 25), (v5, 25), (v6, 25), (v7, 25)] 0 0) 9,
          ByteSpec 25 (streamT 25 [(v0, 25), (v1, 25), (v2, 25), (v3, 25), (v4, 25), (v5, 25), (v6, 25), (v7, 25)] 0 0) 10,
          ByteSpec 25 (streamT 25 [(v0, 25), (v1, 25), (v2, 25), (v3, 25), (v4, 25), (v5, 25), (v6, 25), (v7, 25)] 0 0) 11,
          ByteSpec 25 (streamT 25 [(v0, 25), (v1, 25), (v2, 25), (v3, 25), (v4, 25), (v5, 25), (v6, 25), (v7, 25)] 0 0) 12,
          ByteSpec 25 (streamT 25 [(v0, 25), (v1, 25), (v2, 25), (v3, 25), (v4, 25), (v5, 25), (v6, 25), (v7, 25)] 0 0) 13,
          ByteSpec 25 (streamT 25 [(v0, 25), (v1, 25), (v2, 25), (v3, 25), (v4, 25), (v5, 25), (v6, 25), (v7, 25)] 0 0) 14,
          ByteSpec 25 (streamT 25 [(v0, 25), (v1, 25), (v2, 25), (v3, 25), (v4, 25), (v5, 25), (v6, 25), (v7, 25)] 0 0) 15,
          ByteSpec 25 (streamT 25 [(v0, 25), (v1, 25), (v2, 25), (v3, 25), (v4, 25), (v5, 25), (v6, 25), (v7, 25)] 0 0) 16,
          ByteSpec 25 (streamT 25 [(v0, 25), (v1, 25), (v2, 25), (v3, 25), (v4, 25), (v5, 25), (v6, 25), (v7, 25)] 0 0) 17,
          ByteSpec 25 (streamT 25 [(v0, 25), (v1, 25), (v2, 25), (v3, 25), (v4, 25), (v5, 25), (v6, 25), (v7, 25)] 0 0) 18,
          ByteSpec 25 (streamT 25 [(v0, 25), (v1, 25), (v2, 25), (v3, 25), (v4, 25), (v5, 25), (v6, 25), (v7, 25)] 0 0) 19,
          ByteSpec 25 (streamT 25 [(v0, 25), (v1, 25), (v2, 25), (v3, 25), (v4, 25), (v5, 25), (v6, 25), (v7, 25)] 0 0) 20,
          ByteSpec 25 (streamT 25 [(v0, 25), (v1, 25), (v2, 25), (v3, 25), (v4, 25), (v5, 25), (v6, 25), (v7, 25)] 0 0) 21,
          ByteSpec 25 (streamT 25 [(v0, 25), (v1, 25), (v2, 25), (v3, 25), (v4, 25), (v5, 25), (v6, 25), (v7, 25)] 0 0) 22,
          ByteSpec 25 (streamT 25 [(v0, 25), (v1, 25), (v2, 25), (v3, 25), (v4, 25), (v5, 25), (v6, 25), (v7, 25)] 0 0) 23,
          ByteSpec 25 (streamT 25 [(v0, 25), (v1, 25), (v2, 25), (v3, 25), (v4, 25), (v5, 25), (v6, 25), (v7, 25)] 0 0) 24 ] :=
    (list_eq_map_range_of_getD _ _ 25 hlen hbytes).trans (by rfl)
  have key2 : pack_bits_25 v0 v1 v2 v3 v4 v5 v6 v7
      = [ u8 (((v0 >>> 17) &&& 0xff)),
          u8 (((v0 >>> 9) &&& 0xff)),
          u8 (((v0 >>> 1) &&& 0xff)),
          u8 (((((v0) &&& 0x1) <<< 7) ||| ((v1 >>> 18) &&& 0x7f))),
          u8 (((v1 >>> 10) &&& 0xff)),
          u8 (((v1 >>> 2) &&& 0xff)),
          u8 (((((v1) &&& 0x3) <<< 6) ||| ((v2 >>> 19) &&& 0x3f))),
          u8 (((v2 >>> 11) &&& 0xff)),
          u8 (((v2 >>> 3) &&& 0xff)),
          u8 (((((v2) &&& 0x7) <<< 5) ||| ((v3 >>> 20) &&& 0x1f))),
          u8 (((v3 >>> 12) &&& 0xff)),
          u8 (((v3 >>> 4) &&& 0xff)),
          u8 (((((v3) &&& 0xf) <<< 4) ||| ((v4 >>> 21) &&& 0xf))),
          u8 (((v4 >>> 13) &&& 0xff)),
          u8 (((v4 >>> 5) &&& 0xff)),
          u8 (((((v4) &&& 0x1f) <<< 3) ||| ((v5 >>> 22) &&& 0x7))),
          u8 (((v5 >>> 14) &&& 0xff)),
          u8 (((v5 >>> 6) &&& 0xff)),
          u8 (((((v5) &&& 0x3f) <<< 2) ||| ((v6 >>> 23) &&& 0x3))),
          u8 (((v6 >>> 15) &&& 0xff)),
          u8 (((v6 >>> 7) &&& 0xff)),
          u8 (((((v6) &&& 0x7f) <<< 1) ||| ((v7 >>> 24) &&& 0x1))),
          u8 (((v7 >>> 16) &&& 0xff)),
          u8 (((v7 >>> 8) &&& 0xff)),
          u8 (((v7) &&& 0xff)) ] := rfl
  obtain ⟨A0, S0, hT0, hA0, hS0⟩ :=
    streamT_decomp 25 [(v0, 25), (v1, 25), (v2, 25), (v3, 25), (v4, 25), (v5, 25), (v6, 25), (v7, 25)] [] [(v1, 25), (v2, 25), (v3, 25), (v4, 25), (v5, 25), (v6, 25), (v7, 25)] v0 25 0 rfl rfl hvs
      (by norm_num [List.map_cons, List.map_nil, List.sum_cons, List.sum_nil])
  obtain ⟨A1, S1, hT1, hA1, hS1⟩ :=
    streamT_decomp 25 [(v0, 25), (v1, 25), (v2, 25), (v3, 25), (v4, 25), (v5, 25), (v6, 25), (v7, 25)] [(v0, 25)] [(v2, 25), (v3, 25), (v4, 25), (v5, 25), (v6, 25), (v7, 25)] v1 25 25 rfl rfl hvs
      (by norm_num [List.map_cons, List.map_nil, List.sum_cons, List.sum_nil])
  obtain ⟨A2, S2, hT2, hA2, hS2⟩ :=
    streamT_decomp 25 [(v0, 25), (v1, 25), (v2, 25), (v3, 25), (v4, 25), (v5, 25), (v6, 25), (v7, 25)] [(v0, 25), (v1, 25)] [(v3, 25), (v4, 25), (v5, 25), (v6, 25), (v7, 25)] v2 25 50 rfl rfl hvs
      (by norm_num [List.map_cons, List.map_nil, List.sum_cons, List.sum_nil])
  obtain ⟨A3, S3, hT3, hA3, hS3⟩ :=
    streamT_decomp 25 [(v0, 25), (v1, 25), (v2, 25), (v3, 25), (v4, 25), (v5, 25), (v6, 25), (v7, 25)] [(v0, 25), (v1, 25), (v2, 25)] [(v4, 25), (v5, 25), (v6, 25), (v7, 25)] v3 25 75 rfl rfl hvs
      (by norm_num [List.map_cons, List.map_nil, List.sum_cons, List.sum_nil])
  obtain ⟨A4, S4, hT4, hA4, hS4⟩ :=
    streamT_decomp 25 [(v0, 25), (v1, 25), (v2, 25), (v3, 25), (v4, 25), (v5, 25), (v6, 25), (v7, 25)] [(v0, 25), (v1, 25), (v2, 25), (v3, 25)] [(v5, 25), (v6, 25), (v7, 25)] v4 25 100 rfl rfl hvs
      (by norm_num [List.map_cons, List.map_nil, List.sum_cons, List.sum_nil])
  obtain ⟨A5, S5, hT5, hA5, hS5⟩ :=
    streamT_decomp 25 [(v0, 25), (v1, 25), (v2, 25), (v3, 25), (v4, 25), (v5, 25), (v6, 25), (v7, 25)] [(v0, 25), (v1, 25), (v2, 25), (v3, 25), (v4, 25)] [(v6, 25), (v7, 25)] v5 25 125 rfl rfl hvs
      (by norm_num [List.map_cons, List.map_nil, List.sum_cons, List.sum_nil])
  obtain ⟨A6, S6, hT6, hA6, hS6⟩ :=
    streamT_decomp 25 [(v0, 25), (v1, 25), (v2, 25), (v3, 25), (v4, 25), (v5, 25), (v6, 25), (v7, 25)] [(v0, 25), (v1, 25), (v2, 25), (v3, 25), (v4, 25), (v5, 25)] [(v7, 25)] v6 25 150 rfl rfl hvs
      (by norm_num [List.map_cons, List.map_nil, List.sum_cons, List.sum_nil])
  obtain ⟨A7, S7, hT7, hA7, hS7⟩ :=
    streamT_decomp 25 [(v0, 25), (v1, 25), (v2, 25), (v3, 25), (v4, 25), (v5, 25), (v6, 25), (v7, 25)] [(v0, 25), (v1, 25), (v2, 25), (v3, 25), (v4, 25), (v5, 25), (v6, 25)] [] v7 25 175 rfl rfl hvs
      (by norm_num [List.map_cons, List.map_nil, List.sum_cons, List.sum_nil])
  obtain ⟨B0, R0, hU0, hB0, hR0⟩ :=
    streamT_decomp2 25 [(v0, 25), (v1, 25), (v2, 25), (v3, 25), (v4, 25), (v5, 25), (v6, 25), (v7, 25)] [] [(v2, 25), (v3, 25), (v4, 25), (v5, 25), (v6, 25), (v7, 25)] v0 v1 25 25 0 rfl rfl hvs
      (by norm_num [List.map_cons, List.map_nil, List.sum_cons, List.sum_nil])
  obtain ⟨B1, R1, hU1, hB1, hR1⟩ :=
    streamT_decomp2 25 [(v0, 25), (v1, 25), (v2, 25), (v3, 25), (v4, 25), (v5, 25), (v6, 25), (v7, 25)] [(v0, 25)] [(v3, 25), (v4, 25), (v5, 25), (v6, 25), (v7, 25)] v1 v2 25 25 25 rfl rfl hvs
      (by norm_num [List.map_cons, List.map_nil, List.sum_cons, List.sum_nil])
  obtain ⟨B2, R2, hU2, hB2, hR2⟩ :=
    streamT_decomp2 25 [(v0, 25), (v1, 25), (v2, 25), (v3, 25), (v4, 25), (v5, 25), (v6, 25), (v7, 25)] [(v0, 25), (v1, 25)] [(v4, 25), (v5, 25), (v6, 25), (v7, 25)] v2 v3 25 25 50 rfl rfl hvs
      (by norm_num [List.map_cons, List.map_nil, List.sum_cons, List.sum_nil])
  obtain ⟨B3, R3, hU3, hB3, hR3⟩ :=
    streamT_decomp2 25 [(v0, 25), (v1, 25), (v2, 25), (v3, 25), (v4, 25), (v5, 25), (v6, 25), (v7, 25)] [(v0, 25), (v1, 25), (v2, 25)] [(v5, 25), (v6, 25), (v7, 25)] v3 v4 25 25 75 rfl rfl hvs
      (by norm_num [List.map_cons, List.map_nil, List.sum_cons, List.sum_nil])
  obtain ⟨B4, R4, hU4, hB4, hR4⟩ :=
    streamT_decomp2 25 [(v0, 25), (v1, 25), (v2, 25), (v3, 25), (v4, 25), (v5, 25), (v6, 25), (v7, 25)] [(v0, 25), (v1, 25), (v2, 25), (v3, 25)] [(v6, 25), (v7, 25)] v4 v5 25 25 100 rfl rfl hvs
      (by norm_num [List.map_cons, List.map_nil, List.sum_cons, List.sum_nil])
  obtain ⟨B5, R5, hU5, hB5, hR5⟩ :=
    streamT_decomp2 25 [(v0, 25), (v1, 25), (v2, 25), (v3, 25), (v4, 25), (v5, 25), (v6, 25), (v7, 25)] [(v0, 25), (v1, 25), (v2, 25), (v3, 25), (v4, 25)] [(v7, 25)] v5 v6 25 25 125 rfl rfl hvs
      (by norm_num [List.map_cons, List.map_nil, List.sum_cons, List.sum_nil])
  obtain ⟨B6, R6, hU6, hB6, hR6⟩ :=
    streamT_decomp2 25 [(v0, 25), (v1, 25), (v2, 25), (v3, 25), (v4, 25), (v5, 25), (v6, 25), (v7, 25)] [(v0, 25), (v1, 25), (v2, 25), (v3, 25), (v4, 25), (v5, 25)] [] v6 v7 25 25 150 rfl rfl hvs
      (by norm_num [List.map_cons, List.map_nil, List.sum_cons, List.sum_nil])
  rw [key, key2]
  simp only [List.cons.injEq]
  refine ⟨?_, ?_, ?_, ?_, ?_, ?_, ?_, ?_, ?_, ?_, ?_, ?_, ?_, ?_, ?_, ?_, ?_, ?_, ?_, ?_, ?_, ?_, ?_, ?_, ?_, trivial⟩
  · rw [hT0]
    exact byteSpec_mid 25 A0 v0 S0 (8 * 25 - 0 - 25) 25 0 17 hA0 hS0
      (by norm_num) (by norm_num)
  · rw [hT0]
    exact byteSpec_mid 25 A0 v0 S0 (8 * 25 - 0 - 25) 25 1 9 hA0 hS0
      (by norm_num) (by norm_num)
  · rw [hT0]
    exact byteSpec_mid 25 A0 v0 S0 (8 * 25 - 0 - 25) 25 2 1 hA0 hS0
      (by norm_num) (by norm_num)
  · rw [hU0]
    exact byteSpec_bnd 25 B0 v0 v1 R0 (8 * 25 - 0 - 25 - 25) 3 1 7 18 1 127 25 hB0 hv0 hv1 hR0
      (by norm_num) (by norm_num) (by norm_num) (by norm_num) (by norm_num)
  · rw [hT1]
    exact byteSpec_mid 25 A1 v1 S1 (8 * 25 - 25 - 25) 25 4 10 hA1 hS1
      (by norm_num) (by norm_num)
  · rw [hT1]
    exact byteSpec_mid 25 A1 v1 S1 (8 * 25 - 25 - 25) 25 5 2 hA1 hS1
      (by norm_num) (by norm_num)
  · rw [hU1]
    exact byteSpec_bnd 25 B1 v1 v2 R1 (8 * 25 - 25 - 25 - 25) 6 2 6 19 3 63 25 hB1 hv1 hv2 hR1
      (by norm_num) (by norm_num) (by norm_num) (by norm_num) (by norm_num)
  · rw [hT2]
    exact byteSpec_mid 25 A2 v2 S2 (8 * 25 - 50 - 25) 25 7 11 hA2 hS2
      (by norm_num) (by norm_num)
  · rw [hT2]
    exact byteSpec_mid 25 A2 v2 S2 (8 * 25 - 50 - 25) 25 8 3 hA2 hS2
      (by norm_num) (by norm_num)
  · rw [hU2]
    exact byteSpec_bnd 25 B2 v2 v3 R2 (8 * 25 - 50 - 25 - 25) 9 3 5 20 7 31 25 hB2 hv2 hv3 hR2
      (by norm_num) (by norm_num) (by norm_num) (by norm_num) (by norm_num)
  · rw [hT3]
    exact byteSpec_mid 25 A3 v3 S3 (8 * 25 - 75 - 25) 25 10 12 hA3 hS3
      (by norm_num) (by norm_num)
  · rw [hT3]
    exact byteSpec_mid 25 A3 v3 S3 (8 * 25 - 75 - 25) 25 11 4 hA3 hS3
      (by norm_num) (by norm_num)
  · rw [hU3]
    exact byteSpec_bnd 25 B3 v3 v4 R3 (8 * 25 - 75 - 25 - 25) 12 4 4 21 15 15 25 hB3 hv3 hv4 hR3
      (by norm_num) (by norm_num) (by norm_num) (by norm_num) (by norm_num)
  · rw [hT4]
    exact byteSpec_mid 25 A4 v4 S4 (8 * 25 - 100 - 25) 25 13 13 hA4 hS4
      (by norm_num) (by norm_num)
  · rw [hT4]
    exact byteSpec_mid 25 A4 v4 S4 (8 * 25 - 100 - 25) 25 14 5 hA4 hS4
      (by norm_num) (by norm_num)
  · rw [hU4]
    exact byteSpec_bnd 25 B4 v4 v5 R4 (8 * 25 - 100 - 25 - 25) 15 5 3 22 31 7 25 hB4 hv4 hv5 hR4
      (by norm_num) (by norm_num) (by norm_num) (by norm_num) (by norm_num)
  · rw [hT5]
    exact byteSpec_mid 25 A5 v5 S5 (8 * 25 - 125 - 25) 25 16 14 hA5 hS5
      (by norm_num) (by norm_num)
  · rw [hT5]
    exact byteSpec_mid 25 A5 v5 S5 (8 * 25 - 125 - 25) 25 17 6 hA5 hS5
      (by norm_num) (by norm_num)
  · rw [hU5]
    exact byteSpec_bnd 25 B5 v5 v6 R5 (8 * 25 - 125 - 25 - 25) 18 6 2 23 63 3 25 hB5 hv5 hv6 hR5
      (by norm_num) (by norm_num) (by norm_num) (by norm_num) (by norm_num)
  · rw [hT6]
    exact byteSpec_mid 25 A6 v6 S6 (8 * 25 - 150 - 25) 25 19 15 hA6 hS6
      (by norm_num) (by norm_num)
  · rw [hT6]
    exact byteSpec_mid 25 A6 v6 S6 (8 * 25 - 150 - 25) 25 20 7 hA6 hS6
      (by norm_num) (by norm_num)
  · rw [hU6]
    exact byteSpec_bnd 25 B6 v6 v7 R6 (8 * 25 - 150 - 25 - 25) 21 7 1 24 127 1 25 hB6 hv6 hv7 hR6
      (by norm_num) (by norm_num) (by norm_num) (by norm_num) (by norm_num)
  · rw [hT7]
    exact byteSpec_mid 25 A7 v7 S7 (8 * 25 - 175 - 25) 25 22 16 hA7 hS7
      (by norm_num) (by norm_num)
  · rw [hT7]
    exact byteSpec_mid 25 A7 v7 S7 (8 * 25 - 175 - 25) 25 23 8 hA7 hS7
      (by norm_num) (by norm_num)
  · rw [hT7]
    exact byteSpec_mid0 25 A7 v7 S7 (8 * 25 - 175 - 25) 25 24 hA7 hS7
      (by norm_num) (by norm_num)

set_option maxRecDepth 16000 in
set_option maxHeartbeats 1000000 in
theorem c5_pack_eq_26 (v0 v1 v2 v3 v4 v5 v6 v7 : Nat) (hv0 : v0 < 2 ^ 26) (hv1 : v1 < 2 ^ 26) (hv2 : v2 < 2 ^ 26) (hv3 : v3 < 2 ^ 26) (hv4 : v4 < 2 ^ 26) (hv5 : v5 < 2 ^ 26) (hv6 : v6 < 2 ^ 26) (hv7 : v7 < 2 ^ 26) :
    (packSeq (BitPacker.new (List.replicate 26 0)) [(v0, 26), (v1, 26), (v2, 26), (v3, 26), (v4, 26), (v5, 26), (v6, 26), (v7, 26)]).bytes
      = pack_bits_26 v0 v1 v2 v3 v4 v5 v6 v7 := by
  have hvs : ∀ p ∈ ([(v0, 26), (v1, 26), (v2, 26), (v3, 26), (v4, 26), (v5, 26), (v6, 26), (v7, 26)] : List (Nat × Nat)), p.1 < 2 ^ p.2 := by
    intro p hp
    simp only [List.mem_cons, List.not_mem_nil, or_false] at hp
    rcases hp with rfl | rfl | rfl | rfl | rfl | rfl | rfl | rfl
    exacts [hv0, hv1, hv2, hv3, hv4, hv5, hv6, hv7]
  obtain ⟨-, -, -, ⟨hlen, hbytes⟩, -, -⟩ :=
    packSeq_inv 26 [(v0, 26), (v1, 26), (v2, 26), (v3, 26), (v4, 26), (v5, 26), (v6, 26), (v7, 26)] 0 0 _ hvs
      (by norm_num [List.map_cons, List.map_nil, List.sum_cons, List.sum_nil]) (packInv_init 26)
  have key : (packSeq (BitPacker.new (List.replicate 26 0)) [(v0, 26), (v1, 26), (v2, 26), (v3, 26), (v4, 26), (v5, 26), (v6, 26), (v7, 26)]).bytes
      = [ ByteSpec 26 (streamT 26 [(v0, 26), (v1, 26), (v2, 26), (v3, 26), (v4, 26), (v5, 26), (v6, 26), (v7, 26)] 0 0) 0,
          ByteSpec 26 (streamT 26 [(v0, 26), (v1, 26), (v2, 26), (v3, 26), (v4, 26), (v5, 26), (v6, 26), (v7, 26)] 0 0) 1,
          ByteSpec 26 (streamT 26 [(v0, 26), (v1, 26), (v2, 26), (v3, 26), (v4, 26), (v5, 26), (v6, 26), (v7, 26)] 0 0) 2,
          ByteSpec 26 (streamT 26 [(v0, 26), (v1, 26), (v2, 26), (v3, 26), (v4, 26), (v5, 26), (v6, 26), (v7, 26)] 0 0) 3,
          ByteSpec 26 (streamT 26 [(v0, 26), (v1, 26), (v2, 26), (v3, 26), (v4, 26), (v5, 26), (v6, 26), (v7, 26)] 0 0) 4,
          ByteSpec 26 (streamT 26 [(v0, 26), (v1, 26), (v2, 26), (v3, 26), (v4, 26), (v5, 26), (v6, 26), (v7, 26)] 0 0) 5,
          ByteSpec 26 (streamT 26 [(v0, 26), (v1, 26), (v2, 26), (v3, 26), (v4, 26), (v5, 26), (v6, 26), (v7, 26)] 0 0) 6,
          ByteSpec 26 (streamT 26 [(v0, 26), (v1, 26), (v2, 26), (v3, 26), (v4, 26), (v5, 26), (v6, 26), (v7, 26)] 0 0) 7,
          ByteSpec 26 (streamT 26 [(v0, 26), (v1, 26), (v2, 26), (v3, 26), (v4, 26), (v5, 26), (v6, 26), (v7, 26)] 0 0) 8,
          ByteSpec 26 (streamT 26 [(v0, 26), (v1, 26), (v2, 26), (v3, 26), (v4, 26), (v5, 26), (v6, 26), (v7, 26)] 0 0) 9,
          ByteSpec 26 (streamT 26 [(v0, 26), (v1, 26), (v2, 26), (v3, 26), (v4, 26), (v5, 26), (v6, 26), (v7, 26)] 0 0) 10,
          ByteSpec 26 (streamT 26 [(v0, 26), (v1, 26), (v2, 26), (v3, 26), (v4, 26), (v5, 26), (v6, 26), (v7, 26)] 0 0) 11,
          ByteSpec 26 (streamT 26 [(v0, 26), (v1, 26), (v2, 26), (v3, 26), (v4, 26), (v5, 26), (v6, 26), (v7, 26)] 0 0) 12,
          ByteSpec 26 (streamT 26 [(v0, 26), (v1, 26), (v2, 26), (v3, 26), (v4, 26), (v5, 26), (v6, 26), (v7, 26)] 0 0) 13,
          ByteSpec 26 (streamT 26 [(v0, 26), (v1, 26), (v2, 26), (v3, 26), (v4, 26), (v5, 26), (v6, 26), (v7, 26)] 0 0) 14,
          ByteSpec 26 (streamT 26 [(v0, 26), (v1, 26), (v2, 26), (v3, 26), (v4, 26), (v5, 26), (v6, 26), (v7, 26)] 0 0) 15,
          ByteSpec 26 (streamT 26 [(v0, 26), (v1, 26), (v2, 26), (v3, 26), (v4, 26), (v5, 26), (v6, 26), (v7, 26)] 0 0) 16,
          ByteSpec 26 (streamT 26 [(v0, 26), (v1, 26), (v2, 26), (v3, 26), (v4, 26), (v5, 26), (v6, 26), (v7, 26)] 0 0) 17,
          ByteSpec 26 (streamT 26 [(v0, 26), (v1, 26), (v2, 26), (v3, 26), (v4, 26), (v5, 26), (v6, 26), (v7, 26)] 0 0) 18,
          ByteSpec 26 (streamT 26 [(v0, 26), (v1, 26), (v2, 26), (v3, 26), (v4, 26), (v5, 26), (v6, 26), (v7, 26)] 0 0) 19,
          ByteSpec 26 (streamT 26 [(v0, 26), (v1, 26), (v2, 26), (v3, 26), (v4, 26), (v5, 26), (v6, 26), (v7, 26)] 0 0) 20,
          ByteSpec 26 (streamT 26 [(v0, 26), (v1, 26), (v2, 26), (v3, 26), (v4, 26), (v5, 26), (v6, 26), (v7, 26)] 0 0) 21,
          ByteSpec 26 (streamT 26 [(v0, 26), (v1, 26), (v2, 26), (v3, 26), (v4, 26), (v5, 26), (v6, 26), (v7, 26)] 0 0) 22,
          ByteSpec 26 (streamT 26 [(v0, 26), (v1, 26), (v2, 26), (v3, 26), (v4, 26), (v5, 26), (v6, 26), (v7, 26)] 0 0) 23,
          ByteSpec 26 (streamT 26 [(v0, 26), (v1, 26), (v2, 26), (v3, 26), (v4, 26), (v5, 26), (v6, 26), (v7, 26)] 0 0) 24,
          ByteSpec 26 (streamT 26 [(v0, 26), (v1, 26), (v2, 26), (v3, 26), (v4, 26), (v5, 26), (v6, 26), (v7, 26)] 0 0) 25 ] :=
    (list_eq_map_range_of_getD _ _ 26 hlen hbytes).trans (by rfl)
  have key2 : pack_bits_26 v0 v1 v2 v3 v4 v5 v6 v7
      = [ u8 (((v0 >>> 18) &&& 0xff)),
          u8 (((v0 >>> 10) &&& 0xff)),
          u8 (((v0 >>> 2) &&& 0xff)),
          u8 (((((v0) &&& 0x3) <<< 6) ||| ((v1 >>> 20) &&& 0x3f))),
          u8 (((v1 >>> 12) &&& 0xff)),
          u8 (((v1 >>> 4) &&& 0xff)),
          u8 (((((v1) &&& 0xf) <<< 4) ||| ((v2 >>> 22) &&& 0xf))),
          u8 (((v2 >>> 14) &&& 0xff)),
          u8 (((v2 >>> 6) &&& 0xff)),
          u8 (((((v2) &&& 0x3f) <<< 2) ||| ((v3 >>> 24) &&& 0x3))),
          u8 (((v3 >>> 16) &&& 0xff)),
          u8 (((v3 >>> 8) &&& 0xff)),
          u8 (((v3) &&& 0xff)),
          u8 (((v4 >>> 18) &&& 0xff)),
          u8 (((v4 >>> 10) &&& 0xff)),
          u8 (((v4 >>> 2) &&& 0xff)),
          u8 (((((v4) &&& 0x3) <<< 6) ||| ((v5 >>> 20) &&& 0x3f))),
          u8 (((v5 >>> 12) &&& 0xff)),
          u8 (((v5 >>> 4) &&& 0xff)),
          u8 (((((v5) &&& 0xf) <<< 4) ||| ((v6 >>> 22) &&& 0xf))),
          u8 (((v6 >>> 14) &&& 0xff)),
          u8 (((v6 >>> 6) &&& 0xff)),
          u8 (((((v6) &&& 0x3f) <<< 2) ||| ((v7 >>> 24) &&& 0x3))),
          u8 (((v7 >>> 16) &&& 0xff)),
          u8 (((v7 >>> 8) &&& 0xff)),
          u8 (((v7) &&& 0xff)) ] := rfl
  obtain ⟨A0, S0, hT0, hA0, hS0⟩ :=
    streamT_decomp 26 [(v0, 26), (v1, 26), (v2, 26), (v3, 26), (v4, 26), (v5, 26), (v6, 26), (v7, 26)] [] [(v1, 26), (v2, 26), (v3, 26), (v4, 26), (v5, 26), (v6, 26), (v7, 26)] v0 26 0 rfl rfl hvs
      (by norm_num [List.map_cons, List.map_nil, List.sum_cons, List.sum_nil])
  obtain ⟨A1, S1, hT1, hA1, hS1⟩ :=
    streamT_decomp 26 [(v0, 26), (v1, 26), (v2, 26), (v3, 26), (v4, 26), (v5, 26), (v6, 26), (v7, 26)] [(v0, 26)] [(v2, 26), (v3, 26), (v4, 26), (v5, 26), (v6, 26), (v7, 26)] v1 26 26 rfl rfl hvs
      (by norm_num [List.map_cons, List.map_nil, List.sum_cons, List.sum_nil])
  obtain ⟨A2, S2, hT2, hA2, hS2⟩ :=
    streamT_decomp 26 [(v0, 26), (v1, 26), (v2, 26), (v3, 26), (v4, 26), (v5, 26), (v6, 26), (v7, 26)] [(v0, 26), (v1, 26)] [(v3, 26), (v4, 26), (v5, 26), (v6, 26), (v7, 26)] v2 26 52 rfl rfl hvs
      (by norm_num [List.map_cons, List.map_nil, List.sum_cons, List.sum_nil])
  obtain ⟨A3, S3, hT3, hA3, hS3⟩ :=
    streamT_decomp 26 [(v0, 26), (v1, 26), (v2, 26), (v3, 26), (v4, 26), (v5, 26), (v6, 26), (v7, 26)] [(v0, 26), (v1, 26), (v2, 26)] [(v4, 26), (v5, 26), (v6, 26), (v7, 26)] v3 26 78 rfl rfl hvs
      (by norm_num [List.map_cons, List.map_nil, List.sum_cons, List.sum_nil])
  obtain ⟨A4, S4, hT4, hA4, hS4⟩ :=
    streamT_decomp 26 [(v0, 26), (v1, 26), (v2, 26), (v3, 26), (v4, 26), (v5, 26), (v6, 26), (v7, 26)] [(v0, 26), (v1, 26), (v2, 26), (v3, 26)] [(v5, 26), (v6, 26), (v7, 26)] v4 26 104 rfl rfl hvs
      (by norm_num [List.map_cons, List.map_nil, List.sum_cons, List.sum_nil])
  obtain ⟨A5, S5, hT5, hA5, hS5⟩ :=
    streamT_decomp 26 [(v0, 26), (v1, 26), (v2, 26), (v3, 26), (v4, 26), (v5, 26), (v6, 26), (v7, 26)] [(v0, 26), (v1, 26), (v2, 26), (v3, 26), (v4, 26)] [(v6, 26), (v7, 26)] v5 26 130 rfl rfl hvs
      (by norm_num [List.map_cons, List.map_nil, List.sum_cons, List.sum_nil])
  obtain ⟨A6, S6, hT6, hA6, hS6⟩ :=
    streamT_decomp 26 [(v0, 26), (v1, 26), (v2, 26), (v3, 26), (v4, 26), (v5, 26), (v6, 26), (v7, 26)] [(v0, 26), (v1, 26), (v2, 26), (v3, 26), (v4, 26), (v5, 26)] [(v7, 26)] v6 26 156 rfl rfl hvs
      (by norm_num [List.map_cons, List.map_nil, List.sum_cons, List.sum_nil])
  obtain ⟨A7, S7, hT7, hA7, hS7⟩ :=
    streamT_decomp 26 [(v0, 26), (v1, 26), (v2, 26), (v3, 26), (v4, 26), (v5, 26), (v6, 26), (v7, 26)] [(v0, 26), (v1, 26), (v2, 26), (v3, 26), (v4, 26), (v5, 26), (v6, 26)] [] v7 26 182 rfl rfl hvs
      (by norm_num [List.map_cons, List.map_nil, List.sum_cons, List.sum_nil])
  obtain ⟨B0, R0, hU0, hB0, hR0⟩ :=
    streamT_decomp2 26 [(v0, 26), (v1, 26), (v2, 26), (v3, 26), (v4, 26), (v5, 26), (v6, 26), (v7, 26)] [] [(v2, 26), (v3, 26), (v4, 26), (v5, 26), (v6, 26), (v7, 26)] v0 v1 26 26 0 rfl rfl hvs
      (by norm_num [List.map_cons, List.map_nil, List.sum_cons, List.sum_nil])
  obtain ⟨B1, R1, hU1, hB1, hR1⟩ :=
    streamT_decomp2 26 [(v0, 26), (v1, 26), (v2, 26), (v3, 26), (v4, 26), (v5, 26), (v6, 26), (v7, 26)] [(v0, 26)] [(v3, 26), (v4, 26), (v5, 26), (v6, 26), (v7, 26)] v1 v2 26 26 26 rfl rfl hvs
      (by norm_num [List.map_cons, List.map_nil, List.sum_cons, List.sum_nil])
  obtain ⟨B2, R2, hU2, hB2, hR2⟩ :=
    streamT_decomp2 26 [(v0, 26), (v1, 26), (v2, 26), (v3, 26), (v4, 26), (v5, 26), (v6, 26), (v7, 26)] [(v0, 26), (v1, 26)] [(v4, 26), (v5, 26), (v6, 26), (v7, 26)] v2 v3 26 26 52 rfl rfl hvs
      (by norm_num [List.map_cons, List.map_nil, List.sum_cons, List.sum_nil])
  obtain ⟨B4, R4, hU4, hB4, hR4⟩ :=
    streamT_decomp2 26 [(v0, 26), (v1, 26), (v2, 26), (v3, 26), (v4, 26), (v5, 26), (v6, 26), (v7, 26)] [(v0, 26), (v1, 26), (v2, 26), (v3, 26)] [(v6, 26), (v7, 26)] v4 v5 26 26 104 rfl rfl hvs
      (by norm_num [List.map_cons, List.map_nil, List.sum_cons, List.sum_nil])
  obtain ⟨B5, R5, hU5, hB5, hR5⟩ :=
    streamT_decomp2 26 [(v0, 26), (v1, 26), (v2, 26), (v3, 26), (v4, 26), (v5, 26), (v6, 26), (v7, 26)] [(v0, 26), (v1, 26), (v2, 26), (v3, 26), (v4, 26)] [(v7, 26)] v5 v6 26 26 130 rfl rfl hvs
      (by norm_num [List.map_cons, List.map_nil, List.sum_cons, List.sum_nil])
  obtain ⟨B6, R6, hU6, hB6, hR6⟩ :=
    streamT_decomp2 26 [(v0, 26), (v1, 26), (v2, 26), (v3, 26), (v4, 26), (v5, 26), (v6, 26), (v7, 26)] [(v0, 26), (v1, 26), (v2, 26), (v3, 26), (v4, 26), (v5, 26)] [] v6 v7 26 26 156 rfl rfl hvs
      (by norm_num [List.map_cons, List.map_nil, List.sum_cons, List.sum_nil])
  rw [key, key2]
  simp only [List.cons.injEq]
  refine ⟨?_, ?_, ?_, ?_, ?_, ?_, ?_, ?_, ?_, ?_, ?_, ?_, ?_, ?_, ?_, ?_, ?_, ?_, ?_, ?_, ?_, ?_, ?_, ?_, ?_, ?_, trivial⟩
  · rw [hT0]
    exact byteSpec_mid 26 A0 v0 S0 (8 * 26 - 0 - 26) 26 0 18 hA0 hS0
      (by norm_num) (by norm_num)
  · rw [hT0]
    exact byteSpec_mid 26 A0 v0 S0 (8 * 26 - 0 - 26) 26 1 10 hA0 hS0
      (by norm_num) (by norm_num)
  · rw [hT0]
    exact byteSpec_mid 26 A0 v0 S0 (8 * 26 - 0 - 26) 26 2 2 hA0 hS0
      (by norm_num) (by norm_num)
  · rw [hU0]
    exact byteSpec_bnd 26 B0 v0 v1 R0 (8 * 26 - 0 - 26 - 26) 3 2 6 20 3 63 26 hB0 hv0 hv1 hR0
      (by norm_num) (by norm_num) (by norm_num) (by norm_num) (by norm_num)
  · rw [hT1]
    exact byteSpec_mid 26 A1 v1 S1 (8 * 26 - 26 - 26) 26 4 12 hA1 hS1
      (by norm_num) (by norm_num)
  · rw [hT1]
    exact byteSpec_mid 26 A1 v1 S1 (8 * 26 - 26 - 26) 26 5 4 hA1 hS1
      (by norm_num) (by norm_num)
  · rw [hU1]
    exact byteSpec_bnd 26 B1 v1 v2 R1 (8 * 26 - 26 - 26 - 26) 6 4 4 22 15 15 26 hB1 hv1 hv2 hR1
      (by norm_num) (by norm_num) (by norm_num) (by norm_num) (by norm_num)
  · rw [hT2]
    exact byteSpec_mid 26 A2 v2 S2 (8 * 26 - 52 - 26) 26 7 14 hA2 hS2
      (by norm_num) (by norm_num)
  · rw [hT2]
    exact byteSpec_mid 26 A2 v2 S2 (8 * 26 - 52 - 26) 26 8 6 hA2 hS2
      (by norm_num) (by norm_num)
  · rw [hU2]
    exact byteSpec_bnd 26 B2 v2 v3 R2 (8 * 26 - 52 - 26 - 26) 9 6 2 24 63 3 26 hB2 hv2 hv3 hR2
      (by norm_num) (by norm_num) (by norm_num) (by norm_num) (by norm_num)
  · rw [hT3]
    exact byteSpec_mid 26 A3 v3 S3 (8 * 26 - 78 - 26) 26 10 16 hA3 hS3
      (by norm_num) (by norm_num)
  · rw [hT3]
    exact byteSpec_mid 26 A3 v3 S3 (8 * 26 - 78 - 26) 26 11 8 hA3 hS3
      (by norm_num) (by norm_num)
  · rw [hT3]
    exact byteSpec_mid0 26 A3 v3 S3 (8 * 26 - 78 - 26) 26 12 hA3 hS3
      (by norm_num) (by norm_num)
  · rw [hT4]
    exact byteSpec_mid 26 A4 v4 S4 (8 * 26 - 104 - 26) 26 13 18 hA4 hS4
      (by norm_num) (by norm_num)
  · rw [hT4]
    exact byteSpec_mid 26 A4 v4 S4 (8 * 26 - 104 - 26) 26 14 10 hA4 hS4
      (by norm_num) (by norm_num)
  · rw [hT4]
    exact byteSpec_mid 26 A4 v4 S4 (8 * 26 - 104 - 26) 26 15 2 hA4 hS4
      (by norm_num) (by norm_num)
  · rw [hU4]
    exact byteSpec_bnd 26 B4 v4 v5 R4 (8 * 26 - 104 - 26 - 26) 16 2 6 20 3 63 26 hB4 hv4 hv5 hR4
      (by norm_num) (by norm_num) (by norm_num) (by norm_num) (by norm_num)
  · rw [hT5]
    exact byteSpec_mid 26 A5 v5 S5 (8 * 26 - 130 - 26) 26 17 12 hA5 hS5
      (by norm_num) (by norm_num)
  · rw [hT5]
    exact byteSpec_mid 26 A5 v5 S5 (8 * 26 - 130 - 26) 26 18 4 hA5 hS5
      (by norm_num) (by norm_num)
  · rw [hU5]
    exact byteSpec_bnd 26 B5 v5 v6 R5 (8 * 26 - 130 - 26 - 26) 19 4 4 22 15 15 26 hB5 hv5 hv6 hR5
      (by norm_num) (by norm_num) (by norm_num) (by norm_num) (by norm_num)
  · rw [hT6]
    exact byteSpec_mid 26 A6 v6 S6 (8 * 26 - 156 - 26) 26 20 14 hA6 hS6
      (by norm_num) (by norm_num)
  · rw [hT6]
    exact byteSpec_mid 26 A6 v6 S6 (8 * 26 - 156 - 26) 26 21 6 hA6 hS6
      (by norm_num) (by norm_num)
  · rw [hU6]
    exact byteSpec_bnd 26 B6 v6 v7 R6 (8 * 26 - 156 - 26 - 26) 22 6 2 24 63 3 26 hB6 hv6 hv7 hR6
      (by norm_num) (by norm_num) (by norm_num) (by norm_num) (by norm_num)
  · rw [hT7]
    exact byteSpec_mid 26 A7 v7 S7 (8 * 26 - 182 - 26) 26 23 16 hA7 hS7
      (by norm_num) (by norm_num)
  · rw [hT7]
    exact byteSpec_mid 26 A7 v7 S7 (8 * 26 - 182 - 26) 26 24 8 hA7 hS7
      (by norm_num) (by norm_num)
  · rw [hT7]
    exact byteSpec_mid0 26 A7 v7 S7 (8 * 26 - 182 - 26) 26 25 hA7 hS7
      (by norm_num) (by norm_num)

set_option maxRecDepth 16000 in
set_option maxHeartbeats 1000000 in
theorem c5_pack_eq_27 (v0 v1 v2 v3 v4 v5 v6 v7 : Nat) (hv0 : v0 < 2 ^ 27) (hv1 : v1 < 2 ^ 27) (hv2 : v2 < 2 ^ 27) (hv3 : v3 < 2 ^ 27) (hv4 : v4 < 2 ^ 27) (hv5 : v5 < 2 ^ 27) (hv6 : v6 < 2 ^ 27) (hv7 : v7 < 2 ^ 27) :
    (packSeq (BitPacker.new (List.replicate 27 0)) [(v0, 27), (v1, 27), (v2, 27), (v3, 27), (v4, 27), (v5, 27), (v6, 27), (v7, 27)]).bytes
      = pack_bits_27 v0 v1 v2 v3 v4 v5 v6 v7 := by
  have hvs : ∀ p ∈ ([(v0, 27), (v1, 27), (v2, 27), (v3, 27), (v4, 27), (v5, 27), (v6, 27), (v7, 27)] : List (Nat × Nat)), p.1 < 2 ^ p.2 := by
    intro p hp
    simp only [List.mem_cons, List.not_mem_nil, or_false] at hp
    rcases hp with rfl | rfl | rfl | rfl | rfl | rfl | rfl | rfl
    exacts [hv0, hv1, hv2, hv3, hv4, hv5, hv6, hv7]
  obtain ⟨-, -, -, ⟨hlen, hbytes⟩, -, -⟩ :=
    packSeq_inv 27 [(v0, 27), (v1, 27), (v2, 27), (v3, 27), (v4, 27), (v5, 27), (v6, 27), (v7, 27)] 0 0 _ hvs
      (by norm_num [List.map_cons, List.map_nil, List.sum_cons, List.sum_nil]) (packInv_init 27)
  have key : (packSeq (BitPacker.new (List.replicate 27 0)) [(v0, 27), (v1, 27), (v2, 27), (v3, 27), (v4, 27), (v5, 27), (v6, 27), (v7, 27)]).bytes
      = [ ByteSpec 27 (streamT 27 [(v0, 27), (v1, 27), (v2, 27), (v3, 27), (v4, 27), (v5, 27), (v6, 27), (v7, 27)] 0 0) 0,
          ByteSpec 27 (streamT 27 [(v0, 27), (v1, 27), (v2, 27), (v3, 27), (v4, 27), (v5, 27), (v6, 27), (v7, 27)] 0 0) 1,
          ByteSpec 27 (streamT 27 [(v0, 27), (v1, 27), (v2, 27), (v3, 27), (v4, 27), (v5, 27), (v6, 27), (v7, 27)] 0 0) 2,
          ByteSpec 27 (streamT 27 [(v0, 27), (v1, 27), (v2, 27), (v3, 27), (v4, 27), (v5, 27), (v6, 27), (v7, 27)] 0 0) 3,
          ByteSpec 27 (streamT 27 [(v0, 27), (v1, 27), (v2, 27), (v3, 27), (v4, 27), (v5, 27), (v6, 27), (v7, 27)] 0 0) 4,
          ByteSpec 27 (streamT 27 [(v0, 27), (v1, 27), (v2, 27), (v3, 27), (v4, 27), (v5, 27), (v6, 27), (v7, 27)] 0 0) 5,
          ByteSpec 27 (streamT 27 [(v0, 27), (v1, 27), (v2, 27), (v3, 27), (v4, 27), (v5, 27), (v6, 27), (v7, 27)] 0 0) 6,
          ByteSpec 27 (streamT 27 [(v0, 27), (v1, 27), (v2, 27), (v3, 27), (v4, 27), (v5, 27), (v6, 27), (v7, 27)] 0 0) 7,
          ByteSpec 27 (streamT 27 [(v0, 27), (v1, 27), (v2, 27), (v3, 27), (v4, 27), (v5, 27), (v6, 27), (v7, 27)] 0 0) 8,
          ByteSpec 27 (streamT 27 [(v0, 27), (v1, 27), (v2, 27), (v3, 27), (v4, 27), (v5, 27), (v6, 27), (v7, 27)] 0 0) 9,
          ByteSpec 27 (streamT 27 [(v0, 27), (v1, 27), (v2, 27), (v3, 27), (v4, 27), (v5, 27), (v6, 27), (v7, 27)] 0 0) 10,
          ByteSpec 27 (streamT 27 [(v0, 27), (v1, 27), (v2, 27), (v3, 27), (v4, 27), (v5, 27), (v6, 27), (v7, 27)] 0 0) 11,
          ByteSpec 27 (streamT 27 [(v0, 27), (v1, 27), (v2, 27), (v3, 27), (v4, 27), (v5, 27), (v6, 27), (v7, 27)] 0 0) 12,
          ByteSpec 27 (streamT 27 [(v0, 27), (v1, 27), (v2, 27), (v3, 27), (v4, 27), (v5, 27), (v6, 27), (v7, 27)] 0 0) 13,
          ByteSpec 27 (streamT 27 [(v0, 27), (v1, 27), (v2, 27), (v3, 27), (v4, 27), (v5, 27), (v6, 27), (v7, 27)] 0 0) 14,
          ByteSpec 27 (streamT 27 [(v0, 27), (v1, 27), (v2, 27), (v3, 27), (v4, 27), (v5, 27), (v6, 27), (v7, 27)] 0 0) 15,
          ByteSpec 27 (streamT 27 [(v0, 27), (v1, 27), (v2, 27), (v3, 27), (v4, 27), (v5, 27), (v6, 27), (v7, 27)] 0 0) 16,
          ByteSpec 27 (streamT 27 [(v0, 27), (v1, 27), (v2, 27), (v3, 27), (v4, 27), (v5, 27), (v6, 27), (v7, 27)] 0 0) 17,
          ByteSpec 27 (streamT 27 [(v0, 27), (v1, 27), (v2, 27), (v3, 27), (v4, 27), (v5, 27), (v6, 27), (v7, 27)] 0 0) 18,
          ByteSpec 27 (streamT 27 [(v0, 27), (v1, 27), (v2, 27), (v3, 27), (v4, 27), (v5, 27), (v6, 27), (v7, 27)] 0 0) 19,
          ByteSpec 27 (streamT 27 [(v0, 27), (v1, 27), (v2, 27), (v3, 27), (v4, 27), (v5, 27), (v6, 27), (v7, 27)] 0 0) 20,
          ByteSpec 27 (streamT 27 [(v0, 27), (v1, 27), (v2, 27), (v3, 27), (v4, 27), (v5, 27), (v6, 27), (v7, 27)] 0 0) 21,
          ByteSpec 27 (streamT 27 [(v0, 27), (v1, 27), (v2, 27), (v3, 27), (v4, 27), (v5, 27), (v6, 27), (v7, 27)] 0 0) 22,
          ByteSpec 27 (streamT 27 [(v0, 27), (v1, 27), (v2, 27), (v3, 27), (v4, 27), (v5, 27), (v6, 27), (v7, 27)] 0 0) 23,
          ByteSpec 27 (streamT 27 [(v0, 27), (v1, 27), (v2, 27), (v3, 27), (v4, 27), (v5, 27), (v6, 27), (v7, 27)] 0 0) 24,
          ByteSpec 27 (streamT 27 [(v0, 27), (v1, 27), (v2, 27), (v3, 27), (v4, 27), (v5, 27), (v6, 27), (v7, 27)] 0 0) 25,
          ByteSpec 27 (streamT 27 [(v0, 27), (v1, 27), (v2, 27), (v3, 27), (v4, 27), (v5, 27), (v6, 27), (v7, 27)] 0 0) 26 ] :=
    (list_eq_map_range_of_getD _ _ 27 hlen hbytes).trans (by rfl)
  have key2 : pack_bits_27 v0 v1 v2 v3 v4 v5 v6 v7
      = [ u8 (((v0 >>> 19) &&& 0xff)),
          u8 (((v0 >>> 11) &&& 0xff)),
          u8 (((v0 >>> 3) &&& 0xff)),
          u8 (((((v0) &&& 0x7) <<< 5) ||| ((v1 >>> 22) &&& 0x1f))),
          u8 (((v1 >>> 14) &&& 0xff)),
          u8 (((v1 >>> 6) &&& 0xff)),
          u8 (((((v1) &&& 0x3f) <<< 2) ||| ((v2 >>> 25) &&& 0x3))),
          u8 (((v2 >>> 17) &&& 0xff)),
          u8 (((v2 >>> 9) &&& 0xff)),
          u8 (((v2 >>> 1) &&& 0xff)),
          u8 (((((v2) &&& 0x1) <<< 7) ||| ((v3 >>> 20) &&& 0x7f))),
          u8 (((v3 >>> 12) &&& 0xff)),
          u8 (((v3 >>> 4) &&& 0xff)),
          u8 (((((v3) &&& 0xf) <<< 4) ||| ((v4 >>> 23) &&& 0xf))),
          u8 (((v4 >>> 15) &&& 0xff)),
          u8 (((v4 >>> 7) &&& 0xff)),
          u8 (((((v4) &&& 0x7f) <<< 1) ||| ((v5 >>> 26) &&& 0x1))),
          u8 (((v5 >>> 18) &&& 0xff)),
          u8 (((v5 >>> 10) &&& 0xff)),
          u8 (((v5 >>> 2) &&& 0xff)),
          u8 (((((v5) &&& 0x3) <<< 6) ||| ((v6 >>> 21) &&& 0x3f))),
          u8 (((v6 >>> 13) &&& 0xff)),
          u8 (((v6 >>> 5) &&& 0xff)),
          u8 (((((v6) &&& 0x1f) <<< 3) ||| ((v7 >>> 24) &&& 0x7))),
          u8 (((v7 >>> 16) &&& 0xff)),
          u8 (((v7 >>> 8) &&& 0xff)),
          u8 (((v7) &&& 0xff)) ] := rfl
  obtain ⟨A0, S0, hT0, hA0, hS0⟩ :=
    streamT_decomp 27 [(v0, 27), (v1, 27), (v2, 27), (v3, 27), (v4, 27), (v5, 27), (v6, 27), (v7, 27)] [] [(v1, 27), (v2, 27), (v3, 27), (v4, 27), (v5, 27), (v6, 27), (v7, 27)] v0 27 0 rfl rfl hvs
      (by norm_num [List.map_cons, List.map_nil, List.sum_cons, List.sum_nil])
  obtain ⟨A1, S1, hT1, hA1, hS1⟩ :=
    streamT_decomp 27 [(v0, 27), (v1, 27), (v2, 27), (v3, 27), (v4, 27), (v5, 27), (v6, 27), (v7, 27)] [(v0, 27)] [(v2, 27), (v3, 27), (v4, 27), (v5, 27), (v6, 27), (v7, 27)] v1 27 27 rfl rfl hvs
      (by norm_num [List.map_cons, List.map_nil, List.sum_cons, List.sum_nil])
  obtain ⟨A2, S2, hT2, hA2, hS2⟩ :=
    streamT_decomp 27 [(v0, 27), (v1, 27), (v2, 27), (v3, 27), (v4, 27), (v5, 27), (v6, 27), (v7, 27)] [(v0, 27), (v1, 27)] [(v3, 27), (v4, 27), (v5, 27), (v6, 27), (v7, 27)] v2 27 54 rfl rfl hvs
      (by norm_num [List.map_cons, List.map_nil, List.sum_cons, List.sum_nil])
  obtain ⟨A3, S3, hT3, hA3, hS3⟩ :=
    streamT_decomp 27 [(v0, 27), (v1, 27), (v2, 27), (v3, 27), (v4, 27), (v5, 27), (v6, 27), (v7, 27)] [(v0, 27), (v1, 27), (v2, 27)] [(v4, 27), (v5, 27), (v6, 27), (v7, 27)] v3 27 81 rfl rfl hvs
      (by norm_num [List.map_cons, List.map_nil, List.sum_cons, List.sum_nil])
  obtain ⟨A4, S4, hT4, hA4, hS4⟩ :=
    streamT_decomp 27 [(v0, 27), (v1, 27), (v2, 27), (v3, 27), (v4, 27), (v5, 27), (v6, 27), (v7, 27)] [(v0, 27), (v1, 27), (v2, 27), (v3, 27)] [(v5, 27), (v6, 27), (v7, 27)] v4 27 108 rfl rfl hvs
      (by norm_num [List.map_cons, List.map_nil, List.sum_cons, List.sum_nil])
  obtain ⟨A5, S5, hT5, hA5, hS5⟩ :=
    streamT_decomp 27 [(v0, 27), (v1, 27), (v2, 27), (v3, 27), (v4, 27), (v5, 27), (v6, 27), (v7, 27)] [(v0, 27), (v1, 27), (v2, 27), (v3, 27), (v4, 27)] [(v6, 27), (v7, 27)] v5 27 135 rfl rfl hvs
      (by norm_num [List.map_cons, List.map_nil, List.sum_cons, List.sum_nil])
  obtain ⟨A6, S6, hT6, hA6, hS6⟩ :=
    streamT_decomp 27 [(v0, 27), (v1, 27), (v2, 27), (v3, 27), (v4, 27), (v5, 27), (v6, 27), (v7, 27)] [(v0, 27), (v1, 27), (v2, 27), (v3, 27), (v4, 27), (v5, 27)] [(v7, 27)] v6 27 162 rfl rfl hvs
      (by norm_num [List.map_cons, List.map_nil, List.sum_cons, List.sum_nil])
  obtain ⟨A7, S7, hT7, hA7, hS7⟩ :=
    streamT_decomp 27 [(v0, 27), (v1, 27), (v2, 27), (v3, 27), (v4, 27), (v5, 27), (v6, 27), (v7, 27)] [(v0, 27), (v1, 27), (v2, 27), (v3, 27), (v4, 27), (v5, 27), (v6, 27)] [] v7 27 189 rfl rfl hvs
      (by norm_num [List.map_cons, List.map_nil, List.sum_cons, List.sum_nil])
  obtain ⟨B0, R0, hU0, hB0, hR0⟩ :=
    streamT_decomp2 27 [(v0, 27), (v1, 27), (v2, 27), (v3, 27), (v4, 27), (v5, 27), (v6, 27), (v7, 27)] [] [(v2, 27), (v3, 27), (v4, 27), (v5, 27), (v6, 27), (v7, 27)] v0 v1 27 27 0 rfl rfl hvs
      (by norm_num [List.map_cons, List.map_nil, List.sum_cons, List.sum_nil])
  obtain ⟨B1, R1, hU1, hB1, hR1⟩ :=
    streamT_decomp2 27 [(v0, 27), (v1, 27), (v2, 27), (v3, 27), (v4, 27), (v5, 27), (v6, 27), (v7, 27)] [(v0, 27)] [(v3, 27), (v4, 27), (v5, 27), (v6, 27), (v7, 27)] v1 v2 27 27 27 rfl rfl hvs
      (by norm_num [List.map_cons, List.map_nil, List.sum_cons, List.sum_nil])
  obtain ⟨B2, R2, hU2, hB2, hR2⟩ :=
    streamT_decomp2 27 [(v0, 27), (v1, 27), (v2, 27), (v3, 27), (v4, 27), (v5, 27), (v6, 27), (v7, 27)] [(v0, 27), (v1, 27)] [(v4, 27), (v5, 27), (v6, 27), (v7, 27)] v2 v3 27 27 54 rfl rfl hvs
      (by norm_num [List.map_cons, List.map_nil, List.sum_cons, List.sum_nil])
  obtain ⟨B3, R3, hU3, hB3, hR3⟩ :=
    streamT_decomp2 27 [(v0, 27), (v1, 27), (v2, 27), (v3, 27), (v4, 27), (v5, 27), (v6, 27), (v7, 27)] [(v0, 27), (v1, 27), (v2, 27)] [(v5, 27), (v6, 27), (v7, 27)] v3 v4 27 27 81 rfl rfl hvs
      (by norm_num [List.map_cons, List.map_nil, List.sum_cons, List.sum_nil])
  obtain ⟨B4, R4, hU4, hB4, hR4⟩ :=
    streamT_decomp2 27 [(v0, 27), (v1, 27), (v2, 27), (v3, 27), (v4, 27), (v5, 27), (v6, 27), (v7, 27)] [(v0, 27), (v1, 27), (v2, 27), (v3, 27)] [(v6, 27), (v7, 27)] v4 v5 27 27 108 rfl rfl hvs
      (by norm_num [List.map_cons, List.map_nil, List.sum_cons, List.sum_nil])
  obtain ⟨B5, R5, hU5, hB5, hR5⟩ :=
    streamT_decomp2 27 [(v0, 27), (v1, 27), (v2, 27), (v3, 27), (v4, 27), (v5, 27), (v6, 27), (v7, 27)] [(v0, 27), (v1, 27), (v2, 27), (v3, 27), (v4, 27)] [(v7, 27)] v5 v6 27 27 135 rfl rfl hvs
      (by norm_num [List.map_cons, List.map_nil, List.sum_cons, List.sum_nil])
  obtain ⟨B6, R6, hU6, hB6, hR6⟩ :=
    streamT_decomp2 27 [(v0, 27), (v1, 27), (v2, 27), (v3, 27), (v4, 27), (v5, 27), (v6, 27), (v7, 27)] [(v0, 27), (v1, 27), (v2, 27), (v3, 27), (v4, 27), (v5, 27)] [] v6 v7 27 27 162 rfl rfl hvs
      (by norm_num [List.map_cons, List.map_nil, List.sum_cons, List.sum_nil])
  rw [key, key2]
  simp only [List.cons.injEq]
  refine ⟨?_, ?_, ?_, ?_, ?_, ?_, ?_, ?_, ?_, ?_, ?_, ?_, ?_, ?_, ?_, ?_, ?_, ?_, ?_, ?_, ?_, ?_, ?_, ?_, ?_, ?_, ?_, trivial⟩
  · rw [hT0]
    exact byteSpec_mid 27 A0 v0 S0 (8 * 27 - 0 - 27) 27 0 19 hA0 hS0
      (by norm_num) (by norm_num)
  · rw [hT0]
    exact byteSpec_mid 27 A0 v0 S0 (8 * 27 - 0 - 27) 27 1 11 hA0 hS0
      (by norm_num) (by norm_num)
  · rw [hT0]
    exact byteSpec_mid 27 A0 v0 S0 (8 * 27 - 0 - 27) 27 2 3 hA0 hS0
      (by norm_num) (by norm_num)
  · rw [hU0]
    exact byteSpec_bnd 27 B0 v0 v1 R0 (8 * 27 - 0 - 27 - 27) 3 3 5 22 7 31 27 hB0 hv0 hv1 hR0
      (by norm_num) (by norm_num) (by norm_num) (by norm_num) (by norm_num)
  · rw [hT1]
    exact byteSpec_mid 27 A1 v1 S1 (8 * 27 - 27 - 27) 27 4 14 hA1 hS1
      (by norm_num) (by norm_num)
  · rw [hT1]
    exact byteSpec_mid 27 A1 v1 S1 (8 * 27 - 27 - 27) 27 5 6 hA1 hS1
      (by norm_num) (by norm_num)
  · rw [hU1]
    exact byteSpec_bnd 27 B1 v1 v2 R1 (8 * 27 - 27 - 27 - 27) 6 6 2 25 63 3 27 hB1 hv1 hv2 hR1
      (by norm_num) (by norm_num) (by norm_num) (by norm_num) (by norm_num)
  · rw [hT2]
    exact byteSpec_mid 27 A2 v2 S2 (8 * 27 - 54 - 27) 27 7 17 hA2 hS2
      (by norm_num) (by norm_num)
  · rw [hT2]
    exact byteSpec_mid 27 A2 v2 S2 (8 * 27 - 54 - 27) 27 8 9 hA2 hS2
      (by norm_num) (by norm_num)
  · rw [hT2]
    exact byteSpec_mid 27 A2 v2 S2 (8 * 27 - 54 - 27) 27 9 1 hA2 hS2
      (by norm_num) (by norm_num)
  · rw [hU2]
    exact byteSpec_bnd 27 B2 v2 v3 R2 (8 * 27 - 54 - 27 - 27) 10 1 7 20 1 127 27 hB2 hv2 hv3 hR2
      (by norm_num) (by norm_num) (by norm_num) (by norm_num) (by norm_num)
  · rw [hT3]
    exact byteSpec_mid 27 A3 v3 S3 (8 * 27 - 81 - 27) 27 11 12 hA3 hS3
      (by norm_num) (by norm_num)
  · rw [hT3]
    exact byteSpec_mid 27 A3 v3 S3 (8 * 27 - 81 - 27) 27 12 4 hA3 hS3
      (by norm_num) (by norm_num)
  · rw [hU3]
    exact byteSpec_bnd 27 B3 v3 v4 R3 (8 * 27 - 81 - 27 - 27) 13 4 4 23 15 15 27 hB3 hv3 hv4 hR3
      (by norm_num) (by norm_num) (by norm_num) (by norm_num) (by norm_num)
  · rw [hT4]
    exact byteSpec_mid 27 A4 v4 S4 (8 * 27 - 108 - 27) 27 14 15 hA4 hS4
      (by norm_num) (by norm_num)
  · rw [hT4]
    exact byteSpec_mid 27 A4 v4 S4 (8 * 27 - 108 - 27) 27 15 7 hA4 hS4
      (by norm_num) (by norm_num)
  · rw [hU4]
    exact byteSpec_bnd 27 B4 v4 v5 R4 (8 * 27 - 108 - 27 - 27) 16 7 1 26 127 1 27 hB4 hv4 hv5 hR4
      (by norm_num) (by norm_num) (by norm_num) (by norm_num) (by norm_num)
  · rw [hT5]
    exact byteSpec_mid 27 A5 v5 S5 (8 * 27 - 135 - 27) 27 17 18 hA5 hS5
      (by norm_num) (by norm_num)
  · rw [hT5]
    exact byteSpec_mid 27 A5 v5 S5 (8 * 27 - 135 - 27) 27 18 10 hA5 hS5
      (by norm_num) (by norm_num)
  · rw [hT5]
    exact byteSpec_mid 27 A5 v5 S5 (8 * 27 - 135 - 27) 27 19 2 hA5 hS5
      (by norm_num) (by norm_num)
  · rw [hU5]
    exact byteSpec_bnd 27 B5 v5 v6 R5 (8 * 27 - 135 - 27 - 27) 20 2 6 21 3 63 27 hB5 hv5 hv6 hR5
      (by norm_num) (by norm_num) (by norm_num) (by norm_num) (by norm_num)
  · rw [hT6]
    exact byteSpec_mid 27 A6 v6 S6 (8 * 27 - 162 - 27) 27 21 13 hA6 hS6
      (by norm_num) (by norm_num)
  · rw [hT6]
    exact byteSpec_mid 27 A6 v6 S6 (8 * 27 - 162 - 27) 27 22 5 hA6 hS6
      (by norm_num) (by norm_num)
  · rw [hU6]
    exact byteSpec_bnd 27 B6 v6 v7 R6 (8 * 27 - 162 - 27 - 27) 23 5 3 24 31 7 27 hB6 hv6 hv7 hR6
      (by norm_num) (by norm_num) (by norm_num) (by norm_num) (by norm_num)
  · rw [hT7]
    exact byteSpec_mid 27 A7 v7 S7 (8 * 27 - 189 - 27) 27 24 16 hA7 hS7
      (by norm_num) (by norm_num)
  · rw [hT7]
    exact byteSpec_mid 27 A7 v7 S7 (8 * 27 - 189 - 27) 27 25 8 hA7 hS7
      (by norm_num) (by norm_num)
  · rw [hT7]
    exact byteSpec_mid0 27 A7 v7 S7 (8 * 27 - 189 - 27) 27 26 hA7 hS7
      (by norm_num) (by norm_num)

set_option maxRecDepth 16000 in
set_option maxHeartbeats 1000000 in
theorem c5_pack_eq_28 (v0 v1 v2 v3 v4 v5 v6 v7 : Nat) (hv0 : v0 < 2 ^ 28) (hv1 : v1 < 2 ^ 28) (hv2 : v2 < 2 ^ 28) (hv3 : v3 < 2 ^ 28) (hv4 : v4 < 2 ^ 28) (hv5 : v5 < 2 ^ 28) (hv6 : v6 < 2 ^ 28) (hv7 : v7 < 2 ^ 28) :
    (packSeq (BitPacker.new (List.replicate 28 0)) [(v0, 28), (v1, 28), (v2, 28), (v3, 28), (v4, 28), (v5, 28), (v6, 28), (v7, 28)]).bytes
      = pack_bits_28 v0 v1 v2 v3 v4 v5 v6 v7 := by
  have hvs : ∀ p ∈ ([(v0, 28), (v1, 28), (v2, 28), (v3, 28), (v4, 28), (v5, 28), (v6, 28), (v7, 28)] : List (Nat × Nat)), p.1 < 2 ^ p.2 := by
    intro p hp
    simp only [List.mem_cons, List.not_mem_nil, or_false] at hp
    rcases hp with rfl | rfl | rfl | rfl | rfl | rfl | rfl | rfl
    exacts [hv0, hv1, hv2, hv3, hv4, hv5, hv6, hv7]
  obtain ⟨-, -, -, ⟨hlen, hbytes⟩, -, -⟩ :=
    packSeq_inv 28 [(v0, 28), (v1, 28), (v2, 28), (v3, 28), (v4, 28), (v5, 28), (v6, 28), (v7, 28)] 0 0 _ hvs
      (by norm_num [List.map_cons, List.map_nil, List.sum_cons, List.sum_nil]) (packInv_init 28)
  have key : (packSeq (BitPacker.new (List.replicate 28 0)) [(v0, 28), (v1, 28), (v2, 28), (v3, 28), (v4, 28), (v5, 28), (v6, 28), (v7, 28)]).bytes
      = [ ByteSpec 28 (streamT 28 [(v0, 28), (v1, 28), (v2, 28), (v3, 28), (v4, 28), (v5, 28), (v6, 28), (v7, 28)] 0 0) 0,
          ByteSpec 28 (streamT 28 [(v0, 28), (v1, 28), (v2, 28), (v3, 28), (v4, 28), (v5, 28), (v6, 28), (v7, 28)] 0 0) 1,
          ByteSpec 28 (streamT 28 [(v0, 28), (v1, 28), (v2, 28), (v3, 28), (v4, 28), (v5, 28), (v6, 28), (v7, 28)] 0 0) 2,
          ByteSpec 28 (streamT 28 [(v0, 28), (v1, 28), (v2, 28), (v3, 28), (v4, 28), (v5, 28), (v6, 28), (v7, 28)] 0 0) 3,
          ByteSpec 28 (streamT 28 [(v0, 28), (v1, 28), (v2, 28), (v3, 28), (v4, 28), (v5, 28), (v6, 28), (v7, 28)] 0 0) 4,
          ByteSpec 28 (streamT 28 [(v0, 28), (v1, 28), (v2, 28), (v3, 28), (v4, 28), (v5, 28), (v6, 28), (v7, 28)] 0 0) 5,
          ByteSpec 28 (streamT 28 [(v0, 28), (v1, 28), (v2, 28), (v3, 28), (v4, 28), (v5, 28), (v6, 28), (v7, 28)] 0 0) 6,
          ByteSpec 28 (streamT 28 [(v0, 28), (v1, 28), (v2, 28), (v3, 28), (v4, 28), (v5, 28), (v6, 28), (v7, 28)] 0 0) 7,
          ByteSpec 28 (streamT 28 [(v0, 28), (v1, 28), (v2, 28), (v3, 28), (v4, 28), (v5, 28), (v6, 28), (v7, 28)] 0 0) 8,
          ByteSpec 28 (streamT 28 [(v0, 28), (v1, 28), (v2, 28), (v3, 28), (v4, 28), (v5, 28), (v6, 28), (v7, 28)] 0 0) 9,
          ByteSpec 28 (streamT 28 [(v0, 28), (v1, 28), (v2, 28), (v3, 28), (v4, 28), (v5, 28), (v6, 28), (v7, 28)] 0 0) 10,
          ByteSpec 28 (streamT 28 [(v0, 28), (v1, 28), (v2, 28), (v3, 28), (v4, 28), (v5, 28), (v6, 28), (v7, 28)] 0 0) 11,
          ByteSpec 28 (streamT 28 [(v0, 28), (v1, 28), (v2, 28), (v3, 28), (v4, 28), (v5, 28), (v6, 28), (v7, 28)] 0 0) 12,
          ByteSpec 28 (streamT 28 [(v0, 28), (v1, 28), (v2, 28), (v3, 28), (v4, 28), (v5, 28), (v6, 28), (v7, 28)] 0 0) 13,
          ByteSpec 28 (streamT 28 [(v0, 28), (v1, 28), (v2, 28), (v3, 28), (v4, 28), (v5, 28), (v6, 28), (v7, 28)] 0 0) 14,
          ByteSpec 28 (streamT 28 [(v0, 28), (v1, 28), (v2, 28), (v3, 28), (v4, 28), (v5, 28), (v6, 28), (v7, 28)] 0 0) 15,
          ByteSpec 28 (streamT 28 [(v0, 28), (v1, 28), (v2, 28), (v3, 28), (v4, 28), (v5, 28), (v6, 28), (v7, 28)] 0 0) 16,
          ByteSpec 28 (streamT 28 [(v0, 28), (v1, 28), (v2, 28), (v3, 28), (v4, 28), (v5, 28), (v6, 28), (v7, 28)] 0 0) 17,
          ByteSpec 28 (streamT 28 [(v0, 28), (v1, 28), (v2, 28), (v3, 28), (v4, 28), (v5, 28), (v6, 28), (v7, 28)] 0 0) 18,
          ByteSpec 28 (streamT 28 [(v0, 28), (v1, 28), (v2, 28), (v3, 28), (v4, 28), (v5, 28), (v6, 28), (v7, 28)] 0 0) 19,
          ByteSpec 28 (streamT 28 [(v0, 28), (v1, 28), (v2, 28), (v3, 28), (v4, 28), (v5, 28), (v6, 28), (v7, 28)] 0 0) 20,
          ByteSpec 28 (streamT 28 [(v0, 28), (v1, 28), (v2, 28), (v3, 28), (v4, 28), (v5, 28), (v6, 28), (v7, 28)] 0 0) 21,
          ByteSpec 28 (streamT 28 [(v0, 28), (v1, 28), (v2, 28), (v3, 28), (v4, 28), (v5, 28), (v6, 28), (v7, 28)] 0 0) 22,
          ByteSpec 28 (streamT 28 [(v0, 28), (v1, 28), (v2, 28), (v3, 28), (v4, 28), (v5, 28), (v6, 28), (v7, 28)] 0 0) 23,
          ByteSpec 28 (streamT 28 [(v0, 28), (v1, 28), (v2, 28), (v3, 28), (v4, 28), (v5, 28), (v6, 28), (v7, 28)] 0 0) 24,
          ByteSpec 28 (streamT 28 [(v0, 28), (v1, 28), (v2, 28), (v3, 28), (v4, 28), (v5, 28), (v6, 28), (v7, 28)] 0 0) 25,
          ByteSpec 28 (streamT 28 [(v0, 28), (v1, 28), (v2, 28), (v3, 28), (v4, 28), (v5, 28), (v6, 28), (v7, 28)] 0 0) 26,
          ByteSpec 28 (streamT 28 [(v0, 28), (v1, 28), (v2, 28), (v3, 28), (v4, 28), (v5, 28), (v6, 28), (v7, 28)] 0 0) 27 ] :=
    (list_eq_map_range_of_getD _ _ 28 hlen hbytes).trans (by rfl)
  have key2 : pack_bits_28 v0 v1 v2 v3 v4 v5 v6 v7
      = [ u8 (((v0 >>> 20) &&& 0xff)),
          u8 (((v0 >>> 12) &&& 0xff)),
          u8 (((v0 >>> 4) &&& 0xff)),
          u8 (((((v0) &&& 0xf) <<< 4) ||| ((v1 >>> 24) &&& 0xf))),
          u8 (((v1 >>> 16) &&& 0xff)),
          u8 (((v1 >>> 8) &&& 0xff)),
          u8 (((v1) &&& 0xff)),
          u8 (((v2 >>> 20) &&& 0xff)),
          u8 (((v2 >>> 12) &&& 0xff)),
          u8 (((v2 >>> 4) &&& 0xff)),
          u8 (((((v2) &&& 0xf) <<< 4) ||| ((v3 >>> 24) &&& 0xf))),
          u8 (((v3 >>> 16) &&& 0xff)),
          u8 (((v3 >>> 8) &&& 0xff)),
          u8 (((v3) &&& 0xff)),
          u8 (((v4 >>> 20) &&& 0xff)),
          u8 (((v4 >>> 12) &&& 0xff)),
          u8 (((v4 >>> 4) &&& 0xff)),
          u8 (((((v4) &&& 0xf) <<< 4) ||| ((v5 >>> 24) &&& 0xf))),
          u8 (((v5 >>> 16) &&& 0xff)),
          u8 (((v5 >>> 8) &&& 0xff)),
          u8 (((v5) &&& 0xff)),
          u8 (((v6 >>> 20) &&& 0xff)),
          u8 (((v6 >>> 12) &&& 0xff)),
          u8 (((v6 >>> 4) &&& 0xff)),
          u8 (((((v6) &&& 0xf) <<< 4) ||| ((v7 >>> 24) &&& 0xf))),
          u8 (((v7 >>> 16) &&& 0xff)),
          u8 (((v7 >>> 8) &&& 0xff)),
          u8 (((v7) &&& 0xff)) ] := rfl
  obtain ⟨A0, S0, hT0, hA0, hS0⟩ :=
    streamT_decomp 28 [(v0, 28), (v1, 28), (v2, 28), (v3, 28), (v4, 28), (v5, 28), (v6, 28), (v7, 28)] [] [(v1, 28), (v2, 28), (v3, 28), (v4, 28), (v5, 28), (v6, 28), (v7, 28)] v0 28 0 rfl rfl hvs
      (by norm_num [List.map_cons, List.map_nil, List.sum_cons, List.sum_nil])
  obtain ⟨A1, S1, hT1, hA1, hS1⟩ :=
    streamT_decomp 28 [(v0, 28), (v1, 28), (v2, 28), (v3, 28), (v4, 28), (v5, 28), (v6, 28), (v7, 28)] [(v0, 28)] [(v2, 28), (v3, 28), (v4, 28), (v5, 28), (v6, 28), (v7, 28)] v1 28 28 rfl rfl hvs
      (by norm_num [List.map_cons, List.map_nil, List.sum_cons, List.sum_nil])
  obtain ⟨A2, S2, hT2, hA2, hS2⟩ :=
    streamT_decomp 28 [(v0, 28), (v1, 28), (v2, 28), (v3, 28), (v4, 28), (v5, 28), (v6, 28), (v7, 28)] [(v0, 28), (v1, 28)] [(v3, 28), (v4, 28), (v5, 28), (v6, 28), (v7, 28)] v2 28 56 rfl rfl hvs
      (by norm_num [List.map_cons, List.map_nil, List.sum_cons, List.sum_nil])
  obtain ⟨A3, S3, hT3, hA3, hS3⟩ :=
    streamT_decomp 28 [(v0, 28), (v1, 28), (v2, 28), (v3, 28), (v4, 28), (v5, 28), (v6, 28), (v7, 28)] [(v0, 28), (v1, 28), (v2, 28)] [(v4, 28), (v5, 28), (v6, 28), (v7, 28)] v3 28 84 rfl rfl hvs
      (by norm_num [List.map_cons, List.map_nil, List.sum_cons, List.sum_nil])
  obtain ⟨A4, S4, hT4, hA4, hS4⟩ :=
    streamT_decomp 28 [(v0, 28), (v1, 28), (v2, 28), (v3, 28), (v4, 28), (v5, 28), (v6, 28), (v7, 28)] [(v0, 28), (v1, 28), (v2, 28), (v3, 28)] [(v5, 28), (v6, 28), (v7, 28)] v4 28 112 rfl rfl hvs
      (by norm_num [List.map_cons, List.map_nil, List.sum_cons, List.sum_nil])
  obtain ⟨A5, S5, hT5, hA5, hS5⟩ :=
    streamT_decomp 28 [(v0, 28), (v1, 28), (v2, 28), (v3, 28), (v4, 28), (v5, 28), (v6, 28), (v7, 28)] [(v0, 28), (v1, 28), (v2, 28), (v3, 28), (v4, 28)] [(v6, 28), (v7, 28)] v5 28 140 rfl rfl hvs
      (by norm_num [List.map_cons, List.map_nil, List.sum_cons, List.sum_nil])
  obtain ⟨A6, S6, hT6, hA6, hS6⟩ :=
    streamT_decomp 28 [(v0, 28), (v1, 28), (v2, 28), (v3, 28), (v4, 28), (v5, 28), (v6, 28), (v7, 28)] [(v0, 28), (v1, 28), (v2, 28), (v3, 28), (v4, 28), (v5, 28)] [(v7, 28)] v6 28 168 rfl rfl hvs
      (by norm_num [List.map_cons, List.map_nil, List.sum_cons, List.sum_nil])
  obtain ⟨A7, S7, hT7, hA7, hS7⟩ :=
    streamT_decomp 28 [(v0, 28), (v1, 28), (v2, 28), (v3, 28), (v4, 28), (v5, 28), (v6, 28), (v7, 28)] [(v0, 28), (v1, 28), (v2, 28), (v3, 28), (v4, 28), (v5, 28), (v6, 28)] [] v7 28 196 rfl rfl hvs
      (by norm_num [List.map_cons, List.map_nil, List.sum_cons, List.sum_nil])
  obtain ⟨B0, R0, hU0, hB0, hR0⟩ :=
    streamT_decomp2 28 [(v0, 28), (v1, 28), (v2, 28), (v3, 28), (v4, 28), (v5, 28), (v6, 28), (v7, 28)] [] [(v2, 28), (v3, 28), (v4, 28), (v5, 28), (v6, 28), (v7, 28)] v0 v1 28 28 0 rfl rfl hvs
      (by norm_num [List.map_cons, List.map_nil, List.sum_cons, List.sum_nil])
  obtain ⟨B2, R2, hU2, hB2, hR2⟩ :=
    streamT_decomp2 28 [(v0, 28), (v1, 28), (v2, 28), (v3, 28), (v4, 28), (v5, 28), (v6, 28), (v7, 28)] [(v0, 28), (v1, 28)] [(v4, 28), (v5, 28), (v6, 28), (v7, 28)] v2 v3 28 28 56 rfl rfl hvs
      (by norm_num [List.map_cons, List.map_nil, List.sum_cons, List.sum_nil])
  obtain ⟨B4, R4, hU4, hB4, hR4⟩ :=
    streamT_decomp2 28 [(v0, 28), (v1, 28), (v2, 28), (v3, 28), (v4, 28), (v5, 28), (v6, 28), (v7, 28)] [(v0, 28), (v1, 28), (v2, 28), (v3, 28)] [(v6, 28), (v7, 28)] v4 v5 28 28 112 rfl rfl hvs
      (by norm_num [List.map_cons, List.map_nil, List.sum_cons, List.sum_nil])
  obtain ⟨B6, R6, hU6, hB6, hR6⟩ :=
    streamT_decomp2 28 [(v0, 28), (v1, 28), (v2, 28), (v3, 28), (v4, 28), (v5, 28), (v6, 28), (v7, 28)] [(v0, 28), (v1, 28), (v2, 28), (v3, 28), (v4, 28), (v5, 28)] [] v6 v7 28 28 168 rfl rfl hvs
      (by norm_num [List.map_cons, List.map_nil, List.sum_cons, List.sum_nil])
  rw [key, key2]
  simp only [List.cons.injEq]
  refine ⟨?_, ?_, ?_, ?_, ?_, ?_, ?_, ?_, ?_, ?_, ?_, ?_, ?_, ?_, ?_, ?_, ?_, ?_, ?_, ?_, ?_, ?_, ?_, ?_, ?_, ?_, ?_, ?_, trivial⟩
  · rw [hT0]
    exact byteSpec_mid 28 A0 v0 S0 (8 * 28 - 0 - 28) 28 0 20 hA0 hS0
      (by norm_num) (by norm_num)
  · rw [hT0]
    exact byteSpec_mid 28 A0 v0 S0 (8 * 28 - 0 - 28) 28 1 12 hA0 hS0
      (by norm_num) (by norm_num)
  · rw [hT0]
    exact byteSpec_mid 28 A0 v0 S0 (8 * 28 - 0 - 28) 28 2 4 hA0 hS0
      (by norm_num) (by norm_num)
  · rw [hU0]
    exact byteSpec_bnd 28 B0 v0 v1 R0 (8 * 28 - 0 - 28 - 28) 3 4 4 24 15 15 28 hB0 hv0 hv1 hR0
      (by norm_num) (by norm_num) (by norm_num) (by norm_num) (by norm_num)
  · rw [hT1]
    exact byteSpec_mid 28 A1 v1 S1 (8 * 28 - 28 - 28) 28 4 16 hA1 hS1
      (by norm_num) (by norm_num)
  · rw [hT1]
    exact byteSpec_mid 28 A1 v1 S1 (8 * 28 - 28 - 28) 28 5 8 hA1 hS1
      (by norm_num) (by norm_num)
  · rw [hT1]
    exact byteSpec_mid0 28 A1 v1 S1 (8 * 28 - 28 - 28) 28 6 hA1 hS1
      (by norm_num) (by norm_num)
  · rw [hT2]
    exact byteSpec_mid 28 A2 v2 S2 (8 * 28 - 56 - 28) 28 7 20 hA2 hS2
      (by norm_num) (by norm_num)
  · rw [hT2]
    exact byteSpec_mid 28 A2 v2 S2 (8 * 28 - 56 - 28) 28 8 12 hA2 hS2
      (by norm_num) (by norm_num)
  · rw [hT2]
    exact byteSpec_mid 28 A2 v2 S2 (8 * 28 - 56 - 28) 28 9 4 hA2 hS2
      (by norm_num) (by norm_num)
  · rw [hU2]
    exact byteSpec_bnd 28 B2 v2 v3 R2 (8 * 28 - 56 - 28 - 28) 10 4 4 24 15 15 28 hB2 hv2 hv3 hR2
      (by norm_num) (by norm_num) (by norm_num) (by norm_num) (by norm_num)
  · rw [hT3]
    exact byteSpec_mid 28 A3 v3 S3 (8 * 28 - 84 - 28) 28 11 16 hA3 hS3
      (by norm_num) (by norm_num)
  · rw [hT3]
    exact byteSpec_mid 28 A3 v3 S3 (8 * 28 - 84 - 28) 28 12 8 hA3 hS3
      (by norm_num) (by norm_num)
  · rw [hT3]
    exact byteSpec_mid0 28 A3 v3 S3 (8 * 28 - 84 - 28) 28 13 hA3 hS3
      (by norm_num) (by norm_num)
  · rw [hT4]
    exact byteSpec_mid 28 A4 v4 S4 (8 * 28 - 112 - 28) 28 14 20 hA4 hS4
      (by norm_num) (by norm_num)
  · rw [hT4]
    exact byteSpec_mid 28 A4 v4 S4 (8 * 28 - 112 - 28) 28 15 12 hA4 hS4
      (by norm_num) (by norm_num)
  · rw [hT4]
    exact byteSpec_mid 28 A4 v4 S4 (8 * 28 - 112 - 28) 28 16 4 hA4 hS4
      (by norm_num) (by norm_num)
  · rw [hU4]
    exact byteSpec_bnd 28 B4 v4 v5 R4 (8 * 28 - 112 - 28 - 28) 17 4 4 24 15 15 28 hB4 hv4 hv5 hR4
      (by norm_num) (by norm_num) (by norm_num) (by norm_num) (by norm_num)
  · rw [hT5]
    exact byteSpec_mid 28 A5 v5 S5 (8 * 28 - 140 - 28) 28 18 16 hA5 hS5
      (by norm_num) (by norm_num)
  · rw [hT5]
    exact byteSpec_mid 28 A5 v5 S5 (8 * 28 - 140 - 28) 28 19 8 hA5 hS5
      (by norm_num) (by norm_num)
  · rw [hT5]
    exact byteSpec_mid0 28 A5 v5 S5 (8 * 28 - 140 - 28) 28 20 hA5 hS5
      (by norm_num) (by norm_num)
  · rw [hT6]
    exact byteSpec_mid 28 A6 v6 S6 (8 * 28 - 168 - 28) 28 21 20 hA6 hS6
      (by norm_num) (by norm_num)
  · rw [hT6]
    exact byteSpec_mid 28 A6 v6 S6 (8 * 28 - 168 - 28) 28 22 12 hA6 hS6
      (by norm_num) (by norm_num)
  · rw [hT6]
    exact byteSpec_mid 28 A6 v6 S6 (8 * 28 - 168 - 28) 28 23 4 hA6 hS6
      (by norm_num) (by norm_num)
  · rw [hU6]
    exact byteSpec_bnd 28 B6 v6 v7 R6 (8 * 28 - 168 - 28 - 28) 24 4 4 24 15 15 28 hB6 hv6 hv7 hR6
      (by norm_num) (by norm_num) (by norm_num) (by norm_num) (by norm_num)
  · rw [hT7]
    exact byteSpec_mid 28 A7 v7 S7 (8 * 28 - 196 - 28) 28 25 16 hA7 hS7
      (by norm_num) (by norm_num)
  · rw [hT7]
    exact byteSpec_mid 28 A7 v7 S7 (8 * 28 - 196 - 28) 28 26 8 hA7 hS7
      (by norm_num) (by norm_num)
  · rw [hT7]
    exact byteSpec_mid0 28 A7 v7 S7 (8 * 28 - 196 - 28) 28 27 hA7 hS7
      (by norm_num) (by norm_num)

set_option maxRecDepth 16000 in
set_option maxHeartbeats 1000000 in
theorem c5_pack_eq_29 (v0 v1 v2 v3 v4 v5 v6 v7 : Nat) (hv0 : v0 < 2 ^ 29) (hv1 : v1 < 2 ^ 29) (hv2 : v2 < 2 ^ 29) (hv3 : v3 < 2 ^ 29) (hv4 : v4 < 2 ^ 29) (hv5 : v5 < 2 ^ 29) (hv6 : v6 < 2 ^ 29) (hv7 : v7 < 2 ^ 29) :
    (packSeq (BitPacker.new (List.replicate 29 0)) [(v0, 29), (v1, 29), (v2, 29), (v3, 29), (v4, 29), (v5, 29), (v6, 29), (v7, 29)]).bytes
      = pack_bits_29 v0 v1 v2 v3 v4 v5 v6 v7 := by
  have hvs : ∀ p ∈ ([(v0, 29), (v1, 29), (v2, 29), (v3, 29), (v4, 29), (v5, 29), (v6, 29), (v7, 29)] : List (Nat × Nat)), p.1 < 2 ^ p.2 := by
    intro p hp
    simp only [List.mem_cons, List.not_mem_nil, or_false] at hp
    rcases hp with rfl | rfl | rfl | rfl | rfl | rfl | rfl | rfl
    exacts [hv0, hv1, hv2, hv3, hv4, hv5, hv6, hv7]
  obtain ⟨-, -, -, ⟨hlen, hbytes⟩, -, -⟩ :=
    packSeq_inv 29 [(v0, 29), (v1, 29), (v2, 29), (v3, 29), (v4, 29), (v5, 29), (v6, 29), (v7, 29)] 0 0 _ hvs
      (by norm_num [List.map_cons, List.map_nil, List.sum_cons, List.sum_nil]) (packInv_init 29)
  have key : (packSeq (BitPacker.new (List.replicate 29 0)) [(v0, 29), (v1, 29), (v2, 29), (v3, 29), (v4, 29), (v5, 29), (v6, 29), (v7, 29)]).bytes
      = [ ByteSpec 29 (streamT 29 [(v0, 29), (v1, 29), (v2, 29), (v3, 29), (v4, 29), (v5, 29), (v6, 29), (v7, 29)] 0 0) 0,
          ByteSpec 29 (streamT 29 [(v0, 29), (v1, 29), (v2, 29), (v3, 29), (v4, 29), (v5, 29), (v6, 29), (v7, 29)] 0 0) 1,
          ByteSpec 29 (streamT 29 [(v0, 29), (v1, 29), (v2, 29), (v3, 29), (v4, 29), (v5, 29), (v6, 29), (v7, 29)] 0 0) 2,
          ByteSpec 29 (streamT 29 [(v0, 29), (v1, 29), (v2, 29), (v3, 29), (v4, 29), (v5, 29), (v6, 29), (v7, 29)] 0 0) 3,
          ByteSpec 29 (streamT 29 [(v0, 29), (v1, 29), (v2, 29), (v3, 29), (v4, 29), (v5, 29), (v6, 29), (v7, 29)] 0 0) 4,
          ByteSpec 29 (streamT 29 [(v0, 29), (v1, 29), (v2, 29), (v3, 29), (v4, 29), (v5, 29), (v6, 29), (v7, 29)] 0 0) 5,
          ByteSpec 29 (streamT 29 [(v0, 29), (v1, 29), (v2, 29), (v3, 29), (v4, 29), (v5, 29), (v6, 29), (v7, 29)] 0 0) 6,
          ByteSpec 29 (streamT 29 [(v0, 29), (v1, 29), (v2, 29), (v3, 29), (v4, 29), (v5, 29), (v6, 29), (v7, 29)] 0 0) 7,
          ByteSpec 29 (streamT 29 [(v0, 29), (v1, 29), (v2, 29), (v3, 29), (v4, 29), (v5, 29), (v6, 29), (v7, 29)] 0 0) 8,
          ByteSpec 29 (streamT 29 [(v0, 29), (v1, 29), (v2, 29), (v3, 29), (v4, 29), (v5, 29), (v6, 29), (v7, 29)] 0 0) 9,
          ByteSpec 29 (streamT 29 [(v0, 29), (v1, 29), (v2, 29), (v3, 29), (v4, 29), (v5, 29), (v6, 29), (v7, 29)] 0 0) 10,
          ByteSpec 29 (streamT 29 [(v0, 29), (v1, 29), (v2, 29), (v3, 29), (v4, 29), (v5, 29), (v6, 29), (v7, 29)] 0 0) 11,
          ByteSpec 29 (streamT 29 [(v0, 29), (v1, 29), (v2, 29), (v3, 29), (v4, 29), (v5, 29), (v6, 29), (v7, 29)] 0 0) 12,
          ByteSpec 29 (streamT 29 [(v0, 29), (v1, 29), (v2, 29), (v3, 29), (v4, 29), (v5, 29), (v6, 29), (v7, 29)] 0 0) 13,
          ByteSpec 29 (streamT 29 [(v0, 29), (v1, 29), (v2, 29), (v3, 29), (v4, 29), (v5, 29), (v6, 29), (v7, 29)] 0 0) 14,
          ByteSpec 29 (streamT 29 [(v0, 29), (v1, 29), (v2, 29), (v3, 29), (v4, 29), (v5, 29), (v6, 29), (v7, 29)] 0 0) 15,
          ByteSpec 29 (streamT 29 [(v0, 29), (v1, 29), (v2, 29), (v3, 29), (v4, 29), (v5, 29), (v6, 29), (v7, 29)] 0 0) 16,
          ByteSpec 29 (streamT 29 [(v0, 29), (v1, 29), (v2, 29), (v3, 29), (v4, 29), (v5, 29), (v6, 29), (v7, 29)] 0 0) 17,
          ByteSpec 29 (streamT 29 [(v0, 29), (v1, 29), (v2, 29), (v3, 29), (v4, 29), (v5, 29), (v6, 29), (v7, 29)] 0 0) 18,
          ByteSpec 29 (streamT 29 [(v0, 29), (v1, 29), (v2, 29), (v3, 29), (v4, 29), (v5, 29), (v6, 29), (v7, 29)] 0 0) 19,
          ByteSpec 29 (streamT 29 [(v0, 29), (v1, 29), (v2, 29), (v3, 29), (v4, 29), (v5, 29), (v6, 29), (v7, 29)] 0 0) 20,
          ByteSpec 29 (streamT 29 [(v0, 29), (v1, 29), (v2, 29), (v3, 29), (v4, 29), (v5, 29), (v6, 29), (v7, 29)] 0 0) 21,
          ByteSpec 29 (streamT 29 [(v0, 29), (v1, 29), (v2, 29), (v3, 29), (v4, 29), (v5, 29), (v6, 29), (v7, 29)] 0 0) 22,
          ByteSpec 29 (streamT 29 [(v0, 29), (v1, 29), (v2, 29), (v3, 29), (v4, 29), (v5, 29), (v6, 29), (v7, 29)] 0 0) 23,
          ByteSpec 29 (streamT 29 [(v0, 29), (v1, 29), (v2, 29), (v3, 29), (v4, 29), (v5, 29), (v6, 29), (v7, 29)] 0 0) 24,
          ByteSpec 29 (streamT 29 [(v0, 29), (v1, 29), (v2, 29), (v3, 29), (v4, 29), (v5, 29), (v6, 29), (v7, 29)] 0 0) 25,
          ByteSpec 29 (streamT 29 [(v0, 29), (v1, 29), (v2, 29), (v3, 29), (v4, 29), (v5, 29), (v6, 29), (v7, 29)] 0 0) 26,
          ByteSpec 29 (streamT 29 [(v0, 29), (v1, 29), (v2, 29), (v3, 29), (v4, 29), (v5, 29), (v6, 29), (v7, 29)] 0 0) 27,
          ByteSpec 29 (streamT 29 [(v0, 29), (v1, 29), (v2, 29), (v3, 29), (v4, 29), (v5, 29), (v6, 29), (v7, 29)] 0 0) 28 ] :=
    (list_eq_map_range_of_getD _ _ 29 hlen hbytes).trans (by rfl)
  have key2 : pack_bits_29 v0 v1 v2 v3 v4 v5 v6 v7
      = [ u8 (((v0 >>> 21) &&& 0xff)),
          u8 (((v0 >>> 13) &&& 0xff)),
          u8 (((v0 >>> 5) &&& 0xff)),
          u8 (((((v0) &&& 0x1f) <<< 3) ||| ((v1 >>> 26) &&& 0x7))),
          u8 (((v1 >>> 18) &&& 0xff)),
          u8 (((v1 >>> 10) &&& 0xff)),
          u8 (((v1 >>> 2) &&& 0xff)),
          u8 (((((v1) &&& 0x3) <<< 6) ||| ((v2 >>> 23) &&& 0x3f))),
          u8 (((v2 >>> 15) &&& 0xff)),
          u8 (((v2 >>> 7) &&& 0xff)),
          u8 (((((v2) &&& 0x7f) <<< 1) ||| ((v3 >>> 28) &&& 0x1))),
          u8 (((v3 >>> 20) &&& 0xff)),
          u8 (((v3 >>> 12) &&& 0xff)),
          u8 (((v3 >>> 4) &&& 0xff)),
          u8 (((((v3) &&& 0xf) <<< 4) ||| ((v4 >>> 25) &&& 0xf))),
          u8 (((v4 >>> 17) &&& 0xff)),
          u8 (((v4 >>> 9) &&& 0xff)),
          u8 (((v4 >>> 1) &&& 0xff)),
          u8 (((((v4) &&& 0x1) <<< 7) ||| ((v5 >>> 22) &&& 0x7f))),
          u8 (((v5 >>> 14) &&& 0xff)),
          u8 (((v5 >>> 6) &&& 0xff)),
          u8 (((((v5) &&& 0x3f) <<< 2) ||| ((v6 >>> 27) &&& 0x3))),
          u8 (((v6 >>> 19) &&& 0xff)),
          u8 (((v6 >>> 11) &&& 0xff)),
          u8 (((v6 >>> 3) &&& 0xff)),
          u8 (((((v6) &&& 0x7) <<< 5) ||| ((v7 >>> 24) &&& 0x1f))),
          u8 (((v7 >>> 16) &&& 0xff)),
          u8 (((v7 >>> 8) &&& 0xff)),
          u8 (((v7) &&& 0xff)) ] := rfl
  obtain ⟨A0, S0, hT0, hA0, hS0⟩ :=
    streamT_decomp 29 [(v0, 29), (v1, 29), (v2, 29), (v3, 29), (v4, 29), (v5, 29), (v6, 29), (v7, 29)] [] [(v1, 29), (v2, 29), (v3, 29), (v4, 29), (v5, 29), (v6, 29), (v7, 29)] v0 29 0 rfl rfl hvs
      (by norm_num [List.map_cons, List.map_nil, List.sum_cons, List.sum_nil])
  obtain ⟨A1, S1, hT1, hA1, hS1⟩ :=
    streamT_decomp 29 [(v0, 29), (v1, 29), (v2, 29), (v3, 29), (v4, 29), (v5, 29), (v6, 29), (v7, 29)] [(v0, 29)] [(v2, 29), (v3, 29), (v4, 29), (v5, 29), (v6, 29), (v7, 29)] v1 29 29 rfl rfl hvs
      (by norm_num [List.map_cons, List.map_nil, List.sum_cons, List.sum_nil])
  obtain ⟨A2, S2, hT2, hA2, hS2⟩ :=
    streamT_decomp 29 [(v0, 29), (v1, 29), (v2, 29), (v3, 29), (v4, 29), (v5, 29), (v6, 29), (v7, 29)] [(v0, 29), (v1, 29)] [(v3, 29), (v4, 29), (v5, 29), (v6, 29), (v7, 29)] v2 29 58 rfl rfl hvs
      (by norm_num [List.map_cons, List.map_nil, List.sum_cons, List.sum_nil])
  obtain ⟨A3, S3, hT3, hA3, hS3⟩ :=
    streamT_decomp 29 [(v0, 29), (v1, 29), (v2, 29), (v3, 29), (v4, 29), (v5, 29), (v6, 29), (v7, 29)] [(v0, 29), (v1, 29), (v2, 29)] [(v4, 29), (v5, 29), (v6, 29), (v7, 29)] v3 29 87 rfl rfl hvs
      (by norm_num [List.map_cons, List.map_nil, List.sum_cons, List.sum_nil])
  obtain ⟨A4, S4, hT4, hA4, hS4⟩ :=
    streamT_decomp 29 [(v0, 29), (v1, 29), (v2, 29), (v3, 29), (v4, 29), (v5, 29), (v6, 29), (v7, 29)] [(v0, 29), (v1, 29), (v2, 29), (v3, 29)] [(v5, 29), (v6, 29), (v7, 29)] v4 29 116 rfl rfl hvs
      (by norm_num [List.map_cons, List.map_nil, List.sum_cons, List.sum_nil])
  obtain ⟨A5, S5, hT5, hA5, hS5⟩ :=
    streamT_decomp 29 [(v0, 29), (v1, 29), (v2, 29), (v3, 29), (v4, 29), (v5, 29), (v6, 29), (v7, 29)] [(v0, 29), (v1, 29), (v2, 29), (v3, 29), (v4, 29)] [(v6, 29), (v7, 29)] v5 29 145 rfl rfl hvs
      (by norm_num [List.map_cons, List.map_nil, List.sum_cons, List.sum_nil])
  obtain ⟨A6, S6, hT6, hA6, hS6⟩ :=
    streamT_decomp 29 [(v0, 29), (v1, 29), (v2, 29), (v3, 29), (v4, 29), (v5, 29), (v6, 29), (v7, 29)] [(v0, 29), (v1, 29), (v2, 29), (v3, 29), (v4, 29), (v5, 29)] [(v7, 29)] v6 29 174 rfl rfl hvs
      (by norm_num [List.map_cons, List.map_nil, List.sum_cons, List.sum_nil])
  obtain ⟨A7, S7, hT7, hA7, hS7⟩ :=
    streamT_decomp 29 [(v0, 29), (v1, 29), (v2, 29), (v3, 29), (v4, 29), (v5, 29), (v6, 29), (v7, 29)] [(v0, 29), (v1, 29), (v2, 29), (v3, 29), (v4, 29), (v5, 29), (v6, 29)] [] v7 29 203 rfl rfl hvs
      (by norm_num [List.map_cons, List.map_nil, List.sum_cons, List.sum_nil])
  obtain ⟨B0, R0, hU0, hB0, hR0⟩ :=
    streamT_decomp2 29 [(v0, 29), (v1, 29), (v2, 29), (v3, 29), (v4, 29), (v5, 29), (v6, 29), (v7, 29)] [] [(v2, 29), (v3, 29), (v4, 29), (v5, 29), (v6, 29), (v7, 29)] v0 v1 29 29 0 rfl rfl hvs
      (by norm_num [List.map_cons, List.map_nil, List.sum_cons, List.sum_nil])
  obtain ⟨B1, R1, hU1, hB1, hR1⟩ :=
    streamT_decomp2 29 [(v0, 29), (v1, 29), (v2, 29), (v3, 29), (v4, 29), (v5, 29), (v6, 29), (v7, 29)] [(v0, 29)] [(v3, 29), (v4, 29), (v5, 29), (v6, 29), (v7, 29)] v1 v2 29 29 29 rfl rfl hvs
      (by norm_num [List.map_cons, List.map_nil, List.sum_cons, List.sum_nil])
  obtain ⟨B2, R2, hU2, hB2, hR2⟩ :=
    streamT_decomp2 29 [(v0, 29), (v1, 29), (v2, 29), (v3, 29), (v4, 29), (v5, 29), (v6, 29), (v7, 29)] [(v0, 29), (v1, 29)] [(v4, 29), (v5, 29), (v6, 29), (v7, 29)] v2 v3 29 29 58 rfl rfl hvs
      (by norm_num [List.map_cons, List.map_nil, List.sum_cons, List.sum_nil])
  obtain ⟨B3, R3, hU3, hB3, hR3⟩ :=
    streamT_decomp2 29 [(v0, 29), (v1, 29), (v2, 29), (v3, 29), (v4, 29), (v5, 29), (v6, 29), (v7, 29)] [(v0, 29), (v1, 29), (v2, 29)] [(v5, 29), (v6, 29), (v7, 29)] v3 v4 29 29 87 rfl rfl hvs
      (by norm_num [List.map_cons, List.map_nil, List.sum_cons, List.sum_nil])
  obtain ⟨B4, R4, hU4, hB4, hR4⟩ :=
    streamT_decomp2 29 [(v0, 29), (v1, 29), (v2, 29), (v3, 29), (v4, 29), (v5, 29), (v6, 29), (v7, 29)] [(v0, 29), (v1, 29), (v2, 29), (v3, 29)] [(v6, 29), (v7, 29)] v4 v5 29 29 116 rfl rfl hvs
      (by norm_num [List.map_cons, List.map_nil, List.sum_cons, List.sum_nil])
  obtain ⟨B5, R5, hU5, hB5, hR5⟩ :=
    streamT_decomp2 29 [(v0, 29), (v1, 29), (v2, 29), (v3, 29), (v4, 29), (v5, 29), (v6, 29), (v7, 29)] [(v0, 29), (v1, 29), (v2, 29), (v3, 29), (v4, 29)] [(v7, 29)] v5 v6 29 29 145 rfl rfl hvs
      (by norm_num [List.map_cons, List.map_nil, List.sum_cons, List.sum_nil])
  obtain ⟨B6, R6, hU6, hB6, hR6⟩ :=
    streamT_decomp2 29 [(v0, 29), (v1, 29), (v2, 29), (v3, 29), (v4, 29), (v5, 29), (v6, 29), (v7, 29)] [(v0, 29), (v1, 29), (v2, 29), (v3, 29), (v4, 29), (v5, 29)] [] v6 v7 29 29 174 rfl rfl hvs
      (by norm_num [List.map_cons, List.map_nil, List.sum_cons, List.sum_nil])
  rw [key, key2]
  simp only [List.cons.injEq]
  refine ⟨?_, ?_, ?_, ?_, ?_, ?_, ?_, ?_, ?_, ?_, ?_, ?_, ?_, ?_, ?_, ?_, ?_, ?_, ?_, ?_, ?_, ?_, ?_, ?_, ?_, ?_, ?_, ?_, ?_, trivial⟩
  · rw [hT0]
    exact byteSpec_mid 29 A0 v0 S0 (8 * 29 - 0 - 29) 29 0 21 hA0 hS0
      (by norm_num) (by norm_num)
  · rw [hT0]
    exact byteSpec_mid 29 A0 v0 S0 (8 * 29 - 0 - 29) 29 1 13 hA0 hS0
      (by norm_num) (by norm_num)
  · rw [hT0]
    exact byteSpec_mid 29 A0 v0 S0 (8 * 29 - 0 - 29) 29 2 5 hA0 hS0
      (by norm_num) (by norm_num)
  · rw [hU0]
    exact byteSpec_bnd 29 B0 v0 v1 R0 (8 * 29 - 0 - 29 - 29) 3 5 3 26 31 7 29 hB0 hv0 hv1 hR0
      (by norm_num) (by norm_num) (by norm_num) (by norm_num) (by norm_num)
  · rw [hT1]
    exact byteSpec_mid 29 A1 v1 S1 (8 * 29 - 29 - 29) 29 4 18 hA1 hS1
      (by norm_num) (by norm_num)
  · rw [hT1]
    exact byteSpec_mid 29 A1 v1 S1 (8 * 29 - 29 - 29) 29 5 10 hA1 hS1
      (by norm_num) (by norm_num)
  · rw [hT1]
    exact byteSpec_mid 29 A1 v1 S1 (8 * 29 - 29 - 29) 29 6 2 hA1 hS1
      (by norm_num) (by norm_num)
  · rw [hU1]
    exact byteSpec_bnd 29 B1 v1 v2 R1 (8 * 29 - 29 - 29 - 29) 7 2 6 23 3 63 29 hB1 hv1 hv2 hR1
      (by norm_num) (by norm_num) (by norm_num) (by norm_num) (by norm_num)
  · rw [hT2]
    exact byteSpec_mid 29 A2 v2 S2 (8 * 29 - 58 - 29) 29 8 15 hA2 hS2
      (by norm_num) (by norm_num)
  · rw [hT2]
    exact byteSpec_mid 29 A2 v2 S2 (8 * 29 - 58 - 29) 29 9 7 hA2 hS2
      (by norm_num) (by norm_num)
  · rw [hU2]
    exact byteSpec_bnd 29 B2 v2 v3 R2 (8 * 29 - 58 - 29 - 29) 10 7 1 28 127 1 29 hB2 hv2 hv3 hR2
      (by norm_num) (by norm_num) (by norm_num) (by norm_num) (by norm_num)
  · rw [hT3]
    exact byteSpec_mid 29 A3 v3 S3 (8 * 29 - 87 - 29) 29 11 20 hA3 hS3
      (by norm_num) (by norm_num)
  · rw [hT3]
    exact byteSpec_mid 29 A3 v3 S3 (8 * 29 - 87 - 29) 29 12 12 hA3 hS3
      (by norm_num) (by norm_num)
  · rw [hT3]
    exact byteSpec_mid 29 A3 v3 S3 (8 * 29 - 87 - 29) 29 13 4 hA3 hS3
      (by norm_num) (by norm_num)
  · rw [hU3]
    exact byteSpec_bnd 29 B3 v3 v4 R3 (8 * 29 - 87 - 29 - 29) 14 4 4 25 15 15 29 hB3 hv3 hv4 hR3
      (by norm_num) (by norm_num) (by norm_num) (by norm_num) (by norm_num)
  · rw [hT4]
    exact byteSpec_mid 29 A4 v4 S4 (8 * 29 - 116 - 29) 29 15 17 hA4 hS4
      (by norm_num) (by norm_num)
  · rw [hT4]
    exact byteSpec_mid 29 A4 v4 S4 (8 * 29 - 116 - 29) 29 16 9 hA4 hS4
      (by norm_num) (by norm_num)
  · rw [hT4]
    exact byteSpec_mid 29 A4 v4 S4 (8 * 29 - 116 - 29) 29 17 1 hA4 hS4
      (by norm_num) (by norm_num)
  · rw [hU4]
    exact byteSpec_bnd 29 B4 v4 v5 R4 (8 * 29 - 116 - 29 - 29) 18 1 7 22 1 127 29 hB4 hv4 hv5 hR4
      (by norm_num) (by norm_num) (by norm_num) (by norm_num) (by norm_num)
  · rw [hT5]
    exact byteSpec_mid 29 A5 v5 S5 (8 * 29 - 145 - 29) 29 19 14 hA5 hS5
      (by norm_num) (by norm_num)
  · rw [hT5]
    exact byteSpec_mid 29 A5 v5 S5 (8 * 29 - 145 - 29) 29 20 6 hA5 hS5
      (by norm_num) (by norm_num)
  · rw [hU5]
    exact byteSpec_bnd 29 B5 v5 v6 R5 (8 * 29 - 145 - 29 - 29) 21 6 2 27 63 3 29 hB5 hv5 hv6 hR5
      (by norm_num) (by norm_num) (by norm_num) (by norm_num) (by norm_num)
  · rw [hT6]
    exact byteSpec_mid 29 A6 v6 S6 (8 * 29 - 174 - 29) 29 22 19 hA6 hS6
      (by norm_num) (by norm_num)
  · rw [hT6]
    exact byteSpec_mid 29 A6 v6 S6 (8 * 29 - 174 - 29) 29 23 11 hA6 hS6
      (by norm_num) (by norm_num)
  · rw [hT6]
    exact byteSpec_mid 29 A6 v6 S6 (8 * 29 - 174 - 29) 29 24 3 hA6 hS6
      (by norm_num) (by norm_num)
  · rw [hU6]
    exact byteSpec_bnd 29 B6 v6 v7 R6 (8 * 29 - 174 - 29 - 29) 25 3 5 24 7 31 29 hB6 hv6 hv7 hR6
      (by norm_num) (by norm_num) (by norm_num) (by norm_num) (by norm_num)
  · rw [hT7]
    exact byteSpec_mid 29 A7 v7 S7 (8 * 29 - 203 - 29) 29 26 16 hA7 hS7
      (by norm_num) (by norm_num)
  · rw [hT7]
    exact byteSpec_mid 29 A7 v7 S7 (8 * 29 - 203 - 29) 29 27 8 hA7 hS7
      (by norm_num) (by norm_num)
  · rw [hT7]
    exact byteSpec_mid0 29 A7 v7 S7 (8 * 29 - 203 - 29) 29 28 hA7 hS7
      (by norm_num) (by norm_num)

set_option maxRecDepth 16000 in
set_option maxHeartbeats 1000000 in
theorem c5_pack_eq_30 (v0 v1 v2 v3 v4 v5 v6 v7 : Nat) (hv0 : v0 < 2 ^ 30) (hv1 : v1 < 2 ^ 30) (hv2 : v2 < 2 ^ 30) (hv3 : v3 < 2 ^ 30) (hv4 : v4 < 2 ^ 30) (hv5 : v5 < 2 ^ 30) (hv6 : v6 < 2 ^ 30) (hv7 : v7 < 2 ^ 30) :
    (packSeq (BitPacker.new (List.replicate 30 0)) [(v0, 30), (v1, 30), (v2, 30), (v3, 30), (v4, 30), (v5, 30), (v6, 30), (v7, 30)]).bytes
      = pack_bits_30 v0 v1 v2 v3 v4 v5 v6 v7 := by
  have hvs : ∀ p ∈ ([(v0, 30), (v1, 30), (v2, 30), (v3, 30), (v4, 30), (v5, 30), (v6, 30), (v7, 30)] : List (Nat × Nat)), p.1 < 2 ^ p.2 := by
    intro p hp
    simp only [List.mem_cons, List.not_mem_nil, or_false] at hp
    rcases hp with rfl | rfl | rfl | rfl | rfl | rfl | rfl | rfl
    exacts [hv0, hv1, hv2, hv3, hv4, hv5, hv6, hv7]
  obtain ⟨-, -, -, ⟨hlen, hbytes⟩, -, -⟩ :=
    packSeq_inv 30 [(v0, 30), (v1, 30), (v2, 30), (v3, 30), (v4, 30), (v5, 30), (v6, 30), (v7, 30)] 0 0 _ hvs
      (by norm_num [List.map_cons, List.map_nil, List.sum_cons, List.sum_nil]) (packInv_init 30)
  have key : (packSeq (BitPacker.new (List.replicate 30 0)) [(v0, 30), (v1, 30), (v2, 30), (v3, 30), (v4, 30), (v5, 30), (v6, 30), (v7, 30)]).bytes
      = [ ByteSpec 30 (streamT 30 [(v0, 30), (v1, 30), (v2, 30), (v3, 30), (v4, 30), (v5, 30), (v6, 30), (v7, 30)] 0 0) 0,
          ByteSpec 30 (streamT 30 [(v0, 30), (v1, 30), (v2, 30), (v3, 30), (v4, 30), (v5, 30), (v6, 30), (v7, 30)] 0 0) 1,
          ByteSpec 30 (streamT 30 [(v0, 30), (v1, 30), (v2, 30), (v3, 30), (v4, 30), (v5, 30), (v6, 30), (v7, 30)] 0 0) 2,
          ByteSpec 30 (streamT 30 [(v0, 30), (v1, 30), (v2, 30), (v3, 30), (v4, 30), (v5, 30), (v6, 30), (v7, 30)] 0 0) 3,
          ByteSpec 30 (streamT 30 [(v0, 30), (v1, 30), (v2, 30), (v3, 30), (v4, 30), (v5, 30), (v6, 30), (v7, 30)] 0 0) 4,
          ByteSpec 30 (streamT 30 [(v0, 30), (v1, 30), (v2, 30), (v3, 30), (v4, 30), (v5, 30), (v6, 30), (v7, 30)] 0 0) 5,
          ByteSpec 30 (streamT 30 [(v0, 30), (v1, 30), (v2, 30), (v3, 30), (v4, 30), (v5, 30), (v6, 30), (v7, 30)] 0 0) 6,
          ByteSpec 30 (streamT 30 [(v0, 30), (v1, 30), (v2, 30), (v3, 30), (v4, 30), (v5, 30), (v6, 30), (v7, 30)] 0 0) 7,
          ByteSpec 30 (streamT 30 [(v0, 30), (v1, 30), (v2, 30), (v3, 30), (v4, 30), (v5, 30), (v6, 30), (v7, 30)] 0 0) 8,
          ByteSpec 30 (streamT 30 [(v0, 30), (v1, 30), (v2, 30), (v3, 30), (v4, 30), (v5, 30), (v6, 30), (v7, 30)] 0 0) 9,
          ByteSpec 30 (streamT 30 [(v0, 30), (v1, 30), (v2, 30), (v3, 30), (v4, 30), (v5, 30), (v6, 30), (v7, 30)] 0 0) 10,
          ByteSpec 30 (streamT 30 [(v0, 30), (v1, 30), (v2, 30), (v3, 30), (v4, 30), (v5, 30), (v6, 30), (v7, 30)] 0 0) 11,
          ByteSpec 30 (streamT 30 [(v0, 30), (v1, 30), (v2, 30), (v3, 30), (v4, 30), (v5, 30), (v6, 30), (v7, 30)] 0 0) 12,
          ByteSpec 30 (streamT 30 [(v0, 30), (v1, 30), (v2, 30), (v3, 30), (v4, 30), (v5, 30), (v6, 30), (v7, 30)] 0 0) 13,
          ByteSpec 30 (streamT 30 [(v0, 30), (v1, 30), (v2, 30), (v3, 30), (v4, 30), (v5, 30), (v6, 30), (v7, 30)] 0 0) 14,
          ByteSpec 30 (streamT 30 [(v0, 30), (v1, 30), (v2, 30), (v3, 30), (v4, 30), (v5, 30), (v6, 30), (v7, 30)] 0 0) 15,
          ByteSpec 30 (streamT 30 [(v0, 30), (v1, 30), (v2, 30), (v3, 30), (v4, 30), (v5, 30), (v6, 30), (v7, 30)] 0 0) 16,
          ByteSpec 30 (streamT 30 [(v0, 30), (v1, 30), (v2, 30), (v3, 30), (v4, 30), (v5, 30), (v6, 30), (v7, 30)] 0 0) 17,
          ByteSpec 30 (streamT 30 [(v0, 30), (v1, 30), (v2, 30), (v3, 30), (v4, 30), (v5, 30), (v6, 30), (v7, 30)] 0 0) 18,
          ByteSpec 30 (streamT 30 [(v0, 30), (v1, 30), (v2, 30), (v3, 30), (v4, 30), (v5, 30), (v6, 30), (v7, 30)] 0 0) 19,
          ByteSpec 30 (streamT 30 [(v0, 30), (v1, 30), (v2, 30), (v3, 30), (v4, 30), (v5, 30), (v6, 30), (v7, 30)] 0 0) 20,
          ByteSpec 30 (streamT 30 [(v0, 30), (v1, 30), (v2, 30), (v3, 30), (v4, 30), (v5, 30), (v6, 30), (v7, 30)] 0 0) 21,
          ByteSpec 30 (streamT 30 [(v0, 30), (v1, 30), (v2, 30), (v3, 30), (v4, 30), (v5, 30), (v6, 30), (v7, 30)] 0 0) 22,
          ByteSpec 30 (streamT 30 [(v0, 30), (v1, 30), (v2, 30), (v3, 30), (v4, 30), (v5, 30), (v6, 30), (v7, 30)] 0 0) 23,
          ByteSpec 30 (streamT 30 [(v0, 30), (v1, 30), (v2, 30), (v3, 30), (v4, 30), (v5, 30), (v6, 30), (v7, 30)] 0 0) 24,
          ByteSpec 30 (streamT 30 [(v0, 30), (v1, 30), (v2, 30), (v3, 30), (v4, 30), (v5, 30), (v6, 30), (v7, 30)] 0 0) 25,
          ByteSpec 30 (streamT 30 [(v0, 30), (v1, 30), (v2, 30), (v3, 30), (v4, 30), (v5, 30), (v6, 30), (v7, 30)] 0 0) 26,
          ByteSpec 30 (streamT 30 [(v0, 30), (v1, 30), (v2, 30), (v3, 30), (v4, 30), (v5, 30), (v6, 30), (v7, 30)] 0 0) 27,
          ByteSpec 30 (streamT 30 [(v0, 30), (v1, 30), (v2, 30), (v3, 30), (v4, 30), (v5, 30), (v6, 30), (v7, 30)] 0 0) 28,
          ByteSpec 30 (streamT 30 [(v0, 30), (v1, 30), (v2, 30), (v3, 30), (v4, 30), (v5, 30), (v6, 30), (v7, 30)] 0 0) 29 ] :=
    (list_eq_map_range_of_getD _ _ 30 hlen hbytes).trans (by rfl)
  have key2 : pack_bits_30 v0 v1 v2 v3 v4 v5 v6 v7
      = [ u8 (((v0 >>> 22) &&& 0xff)),
          u8 (((v0 >>> 14) &&& 0xff)),
          u8 (((v0 >>> 6) &&& 0xff)),
          u8 (((((v0) &&& 0x3f) <<< 2) ||| ((v1 >>> 28) &&& 0x3))),
          u8 (((v1 >>> 20) &&& 0xff)),
          u8 (((v1 >>> 12) &&& 0xff)),
          u8 (((v1 >>> 4) &&& 0xff)),
          u8 (((((v1) &&& 0xf) <<< 4) ||| ((v2 >>> 26) &&& 0xf))),
          u8 (((v2 >>> 18) &&& 0xff)),
          u8 (((v2 >>> 10) &&& 0xff)),
          u8 (((v2 >>> 2) &&& 0xff)),
          u8 (((((v2) &&& 0x3) <<< 6) ||| ((v3 >>> 24) &&& 0x3f))),
          u8 (((v3 >>> 16) &&& 0xff)),
          u8 (((v3 >>> 8) &&& 0xff)),
          u8 (((v3) &&& 0xff)),
          u8 (((v4 >>> 22) &&& 0xff)),
          u8 (((v4 >>> 14) &&& 0xff)),
          u8 (((v4 >>> 6) &&& 0xff)),
          u8 (((((v4) &&& 0x3f) <<< 2) ||| ((v5 >>> 28) &&& 0x3))),
          u8 (((v5 >>> 20) &&& 0xff)),
          u8 (((v5 >>> 12) &&& 0xff)),
          u8 (((v5 >>> 4) &&& 0xff)),
          u8 (((((v5) &&& 0xf) <<< 4) ||| ((v6 >>> 26) &&& 0xf))),
          u8 (((v6 >>> 18) &&& 0xff)),
          u8 (((v6 >>> 10) &&& 0xff)),
          u8 (((v6 >>> 2) &&& 0xff)),
          u8 (((((v6) &&& 0x3) <<< 6) ||| ((v7 >>> 24) &&& 0x3f))),
          u8 (((v7 >>> 16) &&& 0xff)),
          u8 (((v7 >>> 8) &&& 0xff)),
          u8 (((v7) &&& 0xff)) ] := rfl
  obtain ⟨A0, S0, hT0, hA0, hS0⟩ :=
    streamT_decomp 30 [(v0, 30), (v1, 30), (v2, 30), (v3, 30), (v4, 30), (v5, 30), (v6, 30), (v7, 30)] [] [(v1, 30), (v2, 30), (v3, 30), (v4, 30), (v5, 30), (v6, 30), (v7, 30)] v0 30 0 rfl rfl hvs
      (by norm_num [List.map_cons, List.map_nil, List.sum_cons, List.sum_nil])
  obtain ⟨A1, S1, hT1, hA1, hS1⟩ :=
    streamT_decomp 30 [(v0, 30), (v1, 30), (v2, 30), (v3, 30), (v4, 30), (v5, 30), (v6, 30), (v7, 30)] [(v0, 30)] [(v2, 30), (v3, 30), (v4, 30), (v5, 30), (v6, 30), (v7, 30)] v1 30 30 rfl rfl hvs
      (by norm_num [List.map_cons, List.map_nil, List.sum_cons, List.sum_nil])
  obtain ⟨A2, S2, hT2, hA2, hS2⟩ :=
    streamT_decomp 30 [(v0, 30), (v1, 30), (v2, 30), (v3, 30), (v4, 30), (v5, 30), (v6, 30), (v7, 30)] [(v0, 30), (v1, 30)] [(v3, 30), (v4, 30), (v5, 30), (v6, 30), (v7, 30)] v2 30 60 rfl rfl hvs
      (by norm_num [List.map_cons, List.map_nil, List.sum_cons, List.sum_nil])
  obtain ⟨A3, S3, hT3, hA3, hS3⟩ :=
    streamT_decomp 30 [(v0, 30), (v1, 30), (v2, 30), (v3, 30), (v4, 30), (v5, 30), (v6, 30), (v7, 30)] [(v0, 30), (v1, 30), (v2, 30)] [(v4, 30), (v5, 30), (v6, 30), (v7, 30)] v3 30 90 rfl rfl hvs
      (by norm_num [List.map_cons, List.map_nil, List.sum_cons, List.sum_nil])
  obtain ⟨A4, S4, hT4, hA4, hS4⟩ :=
    streamT_decomp 30 [(v0, 30), (v1, 30), (v2, 30), (v3, 30), (v4, 30), (v5, 30), (v6, 30), (v7, 30)] [(v0, 30), (v1, 30), (v2, 30), (v3, 30)] [(v5, 30), (v6, 30), (v7, 30)] v4 30 120 rfl rfl hvs
      (by norm_num [List.map_cons, List.map_nil, List.sum_cons, List.sum_nil])
  obtain ⟨A5, S5, hT5, hA5, hS5⟩ :=
    streamT_decomp 30 [(v0, 30), (v1, 30), (v2, 30), (v3, 30), (v4, 30), (v5, 30), (v6, 30), (v7, 30)] [(v0, 30), (v1, 30), (v2, 30), (v3, 30), (v4, 30)] [(v6, 30), (v7, 30)] v5 30 150 rfl rfl hvs
      (by norm_num [List.map_cons, List.map_nil, List.sum_cons, List.sum_nil])
  obtain ⟨A6, S6, hT6, hA6, hS6⟩ :=
    streamT_decomp 30 [(v0, 30), (v1, 30), (v2, 30), (v3, 30), (v4, 30), (v5, 30), (v6, 30), (v7, 30)] [(v0, 30), (v1, 30), (v2, 30), (v3, 30), (v4, 30), (v5, 30)] [(v7, 30)] v6 30 180 rfl rfl hvs
      (by norm_num [List.map_cons, List.map_nil, List.sum_cons, List.sum_nil])
  obtain ⟨A7, S7, hT7, hA7, hS7⟩ :=
    streamT_decomp 30 [(v0, 30), (v1, 30), (v2, 30), (v3, 30), (v4, 30), (v5, 30), (v6, 30), (v7, 30)] [(v0, 30), (v1, 30), (v2, 30), (v3, 30), (v4, 30), (v5, 30), (v6, 30)] [] v7 30 210 rfl rfl hvs
      (by norm_num [List.map_cons, List.map_nil, List.sum_cons, List.sum_nil])
  obtain ⟨B0, R0, hU0, hB0, hR0⟩ :=
    streamT_decomp2 30 [(v0, 30), (v1, 30), (v2, 30), (v3, 30), (v4, 30), (v5, 30), (v6, 30), (v7, 30)] [] [(v2, 30), (v3, 30), (v4, 30), (v5, 30), (v6, 30), (v7, 30)] v0 v1 30 30 0 rfl rfl hvs
      (by norm_num [List.map_cons, List.map_nil, List.sum_cons, List.sum_nil])
  obtain ⟨B1, R1, hU1, hB1, hR1⟩ :=
    streamT_decomp2 30 [(v0, 30), (v1, 30), (v2, 30), (v3, 30), (v4, 30), (v5, 30), (v6, 30), (v7, 30)] [(v0, 30)] [(v3, 30), (v4, 30), (v5, 30), (v6, 30), (v7, 30)] v1 v2 30 30 30 rfl rfl hvs
      (by norm_num [List.map_cons, List.map_nil, List.sum_cons, List.sum_nil])
  obtain ⟨B2, R2, hU2, hB2, hR2⟩ :=
    streamT_decomp2 30 [(v0, 30), (v1, 30), (v2, 30), (v3, 30), (v4, 30), (v5, 30), (v6, 30), (v7, 30)] [(v0, 30), (v1, 30)] [(v4, 30), (v5, 30), (v6, 30), (v7, 30)] v2 v3 30 30 60 rfl rfl hvs
      (by norm_num [List.map_cons, List.map_nil, List.sum_cons, List.sum_nil])
  obtain ⟨B4, R4, hU4, hB4, hR4⟩ :=
    streamT_decomp2 30 [(v0, 30), (v1, 30), (v2, 30), (v3, 30), (v4, 30), (v5, 30), (v6, 30), (v7, 30)] [(v0, 30), (v1, 30), (v2, 30), (v3, 30)] [(v6, 30), (v7, 30)] v4 v5 30 30 120 rfl rfl hvs
      (by norm_num [List.map_cons, List.map_nil, List.sum_cons, List.sum_nil])
  obtain ⟨B5, R5, hU5, hB5, hR5⟩ :=
    streamT_decomp2 30 [(v0, 30), (v1, 30), (v2, 30), (v3, 30), (v4, 30), (v5, 30), (v6, 30), (v7, 30)] [(v0, 30), (v1, 30), (v2, 30), (v3, 30), (v4, 30)] [(v7, 30)] v5 v6 30 30 150 rfl rfl hvs
      (by norm_num [List.map_cons, List.map_nil, List.sum_cons, List.sum_nil])
  obtain ⟨B6, R6, hU6, hB6, hR6⟩ :=
    streamT_decomp2 30 [(v0, 30), (v1, 30), (v2, 30), (v3, 30), (v4, 30), (v5, 30), (v6, 30), (v7, 30)] [(v0, 30), (v1, 30), (v2, 30), (v3, 30), (v4, 30), (v5, 30)] [] v6 v7 30 30 180 rfl rfl hvs
      (by norm_num [List.map_cons, List.map_nil, List.sum_cons, List.sum_nil])
  rw [key, key2]
  simp only [List.cons.injEq]
  refine ⟨?_, ?_, ?_, ?_, ?_, ?_, ?_, ?_, ?_, ?_, ?_, ?_, ?_, ?_, ?_, ?_, ?_, ?_, ?_, ?_, ?_, ?_, ?_, ?_, ?_, ?_, ?_, ?_, ?_, ?_, trivial⟩
  · rw [hT0]
    exact byteSpec_mid 30 A0 v0 S0 (8 * 30 - 0 - 30) 30 0 22 hA0 hS0
      (by norm_num) (by norm_num)
  · rw [hT0]
    exact byteSpec_mid 30 A0 v0 S0 (8 * 30 - 0 - 30) 30 1 14 hA0 hS0
      (by norm_num) (by norm_num)
  · rw [hT0]
    exact byteSpec_mid 30 A0 v0 S0 (8 * 30 - 0 - 30) 30 2 6 hA0 hS0
      (by norm_num) (by norm_num)
  · rw [hU0]
    exact byteSpec_bnd 30 B0 v0 v1 R0 (8 * 30 - 0 - 30 - 30) 3 6 2 28 63 3 30 hB0 hv0 hv1 hR0
      (by norm_num) (by norm_num) (by norm_num) (by norm_num) (by norm_num)
  · rw [hT1]
    exact byteSpec_mid 30 A1 v1 S1 (8 * 30 - 30 - 30) 30 4 20 hA1 hS1
      (by norm_num) (by norm_num)
  · rw [hT1]
    exact byteSpec_mid 30 A1 v1 S1 (8 * 30 - 30 - 30) 30 5 12 hA1 hS1
      (by norm_num) (by norm_num)
  · rw [hT1]
    exact byteSpec_mid 30 A1 v1 S1 (8 * 30 - 30 - 30) 30 6 4 hA1 hS1
      (by norm_num) (by norm_num)
  · rw [hU1]
    exact byteSpec_bnd 30 B1 v1 v2 R1 (8 * 30 - 30 - 30 - 30) 7 4 4 26 15 15 30 hB1 hv1 hv2 hR1
      (by norm_num) (by norm_num) (by norm_num) (by norm_num) (by norm_num)
  · rw [hT2]
    exact byteSpec_mid 30 A2 v2 S2 (8 * 30 - 60 - 30) 30 8 18 hA2 hS2
      (by norm_num) (by norm_num)
  · rw [hT2]
    exact byteSpec_mid 30 A2 v2 S2 (8 * 30 - 60 - 30) 30 9 10 hA2 hS2
      (by norm_num) (by norm_num)
  · rw [hT2]
    exact byteSpec_mid 30 A2 v2 S2 (8 * 30 - 60 - 30) 30 10 2 hA2 hS2
      (by norm_num) (by norm_num)
  · rw [hU2]
    exact byteSpec_bnd 30 B2 v2 v3 R2 (8 * 30 - 60 - 30 - 30) 11 2 6 24 3 63 30 hB2 hv2 hv3 hR2
      (by norm_num) (by norm_num) (by norm_num) (by norm_num) (by norm_num)
  · rw [hT3]
    exact byteSpec_mid 30 A3 v3 S3 (8 * 30 - 90 - 30) 30 12 16 hA3 hS3
      (by norm_num) (by norm_num)
  · rw [hT3]
    exact byteSpec_mid 30 A3 v3 S3 (8 * 30 - 90 - 30) 30 13 8 hA3 hS3
      (by norm_num) (by norm_num)
  · rw [hT3]
    exact byteSpec_mid0 30 A3 v3 S3 (8 * 30 - 90 - 30) 30 14 hA3 hS3
      (by norm_num) (by norm_num)
  · rw [hT4]
    exact byteSpec_mid 30 A4 v4 S4 (8 * 30 - 120 - 30) 30 15 22 hA4 hS4
      (by norm_num) (by norm_num)
  · rw [hT4]
    exact byteSpec_mid 30 A4 v4 S4 (8 * 30 - 120 - 30) 30 16 14 hA4 hS4
      (by norm_num) (by norm_num)
  · rw [hT4]
    exact byteSpec_mid 30 A4 v4 S4 (8 * 30 - 120 - 30) 30 17 6 hA4 hS4
      (by norm_num) (by norm_num)
  · rw [hU4]
    exact byteSpec_bnd 30 B4 v4 v5 R4 (8 * 30 - 120 - 30 - 30) 18 6 2 28 63 3 30 hB4 hv4 hv5 hR4
      (by norm_num) (by norm_num) (by norm_num) (by norm_num) (by norm_num)
  · rw [hT5]
    exact byteSpec_mid 30 A5 v5 S5 (8 * 30 - 150 - 30) 30 19 20 hA5 hS5
      (by norm_num) (by norm_num)
  · rw [hT5]
    exact byteSpec_mid 30 A5 v5 S5 (8 * 30 - 150 - 30) 30 20 12 hA5 hS5
      (by norm_num) (by norm_num)
  · rw [hT5]
    exact byteSpec_mid 30 A5 v5 S5 (8 * 30 - 150 - 30) 30 21 4 hA5 hS5
      (by norm_num) (by norm_num)
  · rw [hU5]
    exact byteSpec_bnd 30 B5 v5 v6 R5 (8 * 30 - 150 - 30 - 30) 22 4 4 26 15 15 30 hB5 hv5 hv6 hR5
      (by norm_num) (by norm_num) (by norm_num) (by norm_num) (by norm_num)
  · rw [hT6]
    exact byteSpec_mid 30 A6 v6 S6 (8 * 30 - 180 - 30) 30 23 18 hA6 hS6
      (by norm_num) (by norm_num)
  · rw [hT6]
    exact byteSpec_mid 30 A6 v6 S6 (8 * 30 - 180 - 30) 30 24 10 hA6 hS6
      (by norm_num) (by norm_num)
  · rw [hT6]
    exact byteSpec_mid 30 A6 v6 S6 (8 * 30 - 180 - 30) 30 25 2 hA6 hS6
      (by norm_num) (by norm_num)
  · rw [hU6]
    exact byteSpec_bnd 30 B6 v6 v7 R6 (8 * 30 - 180 - 30 - 30) 26 2 6 24 3 63 30 hB6 hv6 hv7 hR6
      (by norm_num) (by norm_num) (by norm_num) (by norm_num) (by norm_num)
  · rw [hT7]
    exact byteSpec_mid 30 A7 v7 S7 (8 * 30 - 210 - 30) 30 27 16 hA7 hS7
      (by norm_num) (by norm_num)
  · rw [hT7]
    exact byteSpec_mid 30 A7 v7 S7 (8 * 30 - 210 - 30) 30 28 8 hA7 hS7
      (by norm_num) (by norm_num)
  · rw [hT7]
    exact byteSpec_mid0 30 A7 v7 S7 (8 * 30 - 210 - 30) 30 29 hA7 hS7
      (by norm_num) (by norm_num)

set_option maxRecDepth 16000 in
set_option maxHeartbeats 1000000 in
theorem c5_pack_eq_31 (v0 v1 v2 v3 v4 v5 v6 v7 : Nat) (hv0 : v0 < 2 ^ 31) (hv1 : v1 < 2 ^ 31) (hv2 : v2 < 2 ^ 31) (hv3 : v3 < 2 ^ 31) (hv4 : v4 < 2 ^ 31) (hv5 : v5 < 2 ^ 31) (hv6 : v6 < 2 ^ 31) (hv7 : v7 < 2 ^ 31) :
    (packSeq (BitPacker.new (List.replicate 31 0)) [(v0, 31), (v1, 31), (v2, 31), (v3, 31), (v4, 31), (v5, 31), (v6, 31), (v7, 31)]).bytes
      = pack_bits_31 v0 v1 v2 v3 v4 v5 v6 v7 := by
  have hvs : ∀ p ∈ ([(v0, 31), (v1, 31), (v2, 31), (v3, 31), (v4, 31), (v5, 31), (v6, 31), (v7, 31)] : List (Nat × Nat)), p.1 < 2 ^ p.2 := by
    intro p hp
    simp only [List.mem_cons, List.not_mem_nil, or_false] at hp
    rcases hp with rfl | rfl | rfl | rfl | rfl | rfl | rfl | rfl
    exacts [hv0, hv1, hv2, hv3, hv4, hv5, hv6, hv7]
  obtain ⟨-, -, -, ⟨hlen, hbytes⟩, -, -⟩ :=
    packSeq_inv 31 [(v0, 31), (v1, 31), (v2, 31), (v3, 31), (v4, 31), (v5, 31), (v6, 31), (v7, 31)] 0 0 _ hvs
      (by norm_num [List.map_cons, List.map_nil, List.sum_cons, List.sum_nil]) (packInv_init 31)
  have key : (packSeq (BitPacker.new (List.replicate 31 0)) [(v0, 31), (v1, 31), (v2, 31), (v3, 31), (v4, 31), (v5, 31), (v6, 31), (v7, 31)]).bytes
      = [ ByteSpec 31 (streamT 31 [(v0, 31), (v1, 31), (v2, 31), (v3, 31), (v4, 31), (v5, 31), (v6, 31), (v7, 31)] 0 0) 0,
          ByteSpec 31 (streamT 31 [(v0, 31), (v1, 31), (v2, 31), (v3, 31), (v4, 31), (v5, 31), (v6, 31), (v7, 31)] 0 0) 1,
          ByteSpec 31 (streamT 31 [(v0, 31), (v1, 31), (v2, 31), (v3, 31), (v4, 31), (v5, 31), (v6, 31), (v7, 31)] 0 0) 2,
          ByteSpec 31 (streamT 31 [(v0, 31), (v1, 31), (v2, 31), (v3, 31), (v4, 31), (v5, 31), (v6, 31), (v7, 31)] 0 0) 3,
          ByteSpec 31 (streamT 31 [(v0, 31), (v1, 31), (v2, 31), (v3, 31), (v4, 31), (v5, 31), (v6, 31), (v7, 31)] 0 0) 4,
          ByteSpec 31 (streamT 31 [(v0, 31), (v1, 31), (v2, 31), (v3, 31), (v4, 31), (v5, 31), (v6, 31), (v7, 31)] 0 0) 5,
          ByteSpec 31 (streamT 31 [(v0, 31), (v1, 31), (v2, 31), (v3, 31), (v4, 31), (v5, 31), (v6, 31), (v7, 31)] 0 0) 6,
          ByteSpec 31 (streamT 31 [(v0, 31), (v1, 31), (v2, 31), (v3, 31), (v4, 31), (v5, 31), (v6, 31), (v7, 31)] 0 0) 7,
          ByteSpec 31 (streamT 31 [(v0, 31), (v1, 31), (v2, 31), (v3, 31), (v4, 31), (v5, 31), (v6, 31), (v7, 31)] 0 0) 8,
          ByteSpec 31 (streamT 31 [(v0, 31), (v1, 31), (v2, 31), (v3, 31), (v4, 31), (v5, 31), (v6, 31), (v7, 31)] 0 0) 9,
          ByteSpec 31 (streamT 31 [(v0, 31), (v1, 31), (v2, 31), (v3, 31), (v4, 31), (v5, 31), (v6, 31), (v7, 31)] 0 0) 10,
          ByteSpec 31 (streamT 31 [(v0, 31), (v1, 31), (v2, 31), (v3, 31), (v4, 31), (v5, 31), (v6, 31), (v7, 31)] 0 0) 11,
          ByteSpec 31 (streamT 31 [(v0, 31), (v1, 31), (v2, 31), (v3, 31), (v4, 31), (v5, 31), (v6, 31), (v7, 31)] 0 0) 12,
          ByteSpec 31 (streamT 31 [(v0, 31), (v1, 31), (v2, 31), (v3, 31), (v4, 31), (v5, 31), (v6, 31), (v7, 31)] 0 0) 13,
          ByteSpec 31 (streamT 31 [(v0, 31), (v1, 31), (v2, 31), (v3, 31), (v4, 31), (v5, 31), (v6, 31), (v7, 31)] 0 0) 14,
          ByteSpec 31 (streamT 31 [(v0, 31), (v1, 31), (v2, 31), (v3, 31), (v4, 31), (v5, 31), (v6, 31), (v7, 31)] 0 0) 15,
          ByteSpec 31 (streamT 31 [(v0, 31), (v1, 31), (v2, 31), (v3, 31), (v4, 31), (v5, 31), (v6, 31), (v7, 31)] 0 0) 16,
          ByteSpec 31 (streamT 31 [(v0, 31), (v1, 31), (v2, 31), (v3, 31), (v4, 31), (v5, 31), (v6, 31), (v7, 31)] 0 0) 17,
          ByteSpec 31 (streamT 31 [(v0, 31), (v1, 31), (v2, 31), (v3, 31), (v4, 31), (v5, 31), (v6, 31), (v7, 31)] 0 0) 18,
          ByteSpec 31 (streamT 31 [(v0, 31), (v1, 31), (v2, 31), (v3, 31), (v4, 31), (v5, 31), (v6, 31), (v7, 31)] 0 0) 19,
          ByteSpec 31 (streamT 31 [(v0, 31), (v1, 31), (v2, 31), (v3, 31), (v4, 31), (v5, 31), (v6, 31), (v7, 31)] 0 0) 20,
          ByteSpec 31 (streamT 31 [(v0, 31), (v1, 31), (v2, 31), (v3, 31), (v4, 31), (v5, 31), (v6, 31), (v7, 31)] 0 0) 21,
          ByteSpec 31 (streamT 31 [(v0, 31), (v1, 31), (v2, 31), (v3, 31), (v4, 31), (v5, 31), (v6, 31), (v7, 31)] 0 0) 22,
          ByteSpec 31 (streamT 31 [(v0, 31), (v1, 31), (v2, 31), (v3, 31), (v4, 31), (v5, 31), (v6, 31), (v7, 31)] 0 0) 23,
          ByteSpec 31 (streamT 31 [(v0, 31), (v1, 31), (v2, 31), (v3, 31), (v4, 31), (v5, 31), (v6, 31), (v7, 31)] 0 0) 24,
          ByteSpec 31 (streamT 31 [(v0, 31), (v1, 31), (v2, 31), (v3, 31), (v4, 31), (v5, 31), (v6, 31), (v7, 31)] 0 0) 25,
          ByteSpec 31 (streamT 31 [(v0, 31), (v1, 31), (v2, 31), (v3, 31), (v4, 31), (v5, 31), (v6, 31), (v7, 31)] 0 0) 26,
          ByteSpec 31 (streamT 31 [(v0, 31), (v1, 31), (v2, 31), (v3, 31), (v4, 31), (v5, 31), (v6, 31), (v7, 31)] 0 0) 27,
          ByteSpec 31 (streamT 31 [(v0, 31), (v1, 31), (v2, 31), (v3, 31), (v4, 31), (v5, 31), (v6, 31), (v7, 31)] 0 0) 28,
          ByteSpec 31 (streamT 31 [(v0, 31), (v1, 31), (v2, 31), (v3, 31), (v4, 31), (v5, 31), (v6, 31), (v7, 31)] 0 0) 29,
          ByteSpec 31 (streamT 31 [(v0, 31), (v1, 31), (v2, 31), (v3, 31), (v4, 31), (v5, 31), (v6, 31), (v7, 31)] 0 0) 30 ] :=
    (list_eq_map_range_of_getD _ _ 31 hlen hbytes).trans (by rfl)
  have key2 : pack_bits_31 v0 v1 v2 v3 v4 v5 v6 v7
      = [ u8 (((v0 >>> 23) &&& 0xff)),
          u8 (((v0 >>> 15) &&& 0xff)),
          u8 (((v0 >>> 7) &&& 0xff)),
          u8 (((((v0) &&& 0x7f) <<< 1) ||| ((v1 >>> 30) &&& 0x1))),
          u8 (((v1 >>> 22) &&& 0xff)),
          u8 (((v1 >>> 14) &&& 0xff)),
          u8 (((v1 >>> 6) &&& 0xff)),
          u8 (((((v1) &&& 0x3f) <<< 2) ||| ((v2 >>> 29) &&& 0x3))),
          u8 (((v2 >>> 21) &&& 0xff)),
          u8 (((v2 >>> 13) &&& 0xff)),
          u8 (((v2 >>> 5) &&& 0xff)),
          u8 (((((v2) &&& 0x1f) <<< 3) ||| ((v3 >>> 28) &&& 0x7))),
          u8 (((v3 >>> 20) &&& 0xff)),
          u8 (((v3 >>> 12) &&& 0xff)),
          u8 (((v3 >>> 4) &&& 0xff)),
          u8 (((((v3) &&& 0xf) <<< 4) ||| ((v4 >>> 27) &&& 0xf))),
          u8 (((v4 >>> 19) &&& 0xff)),
          u8 (((v4 >>> 11) &&& 0xff)),
          u8 (((v4 >>> 3) &&& 0xff)),
          u8 (((((v4) &&& 0x7) <<< 5) ||| ((v5 >>> 26) &&& 0x1f))),
          u8 (((v5 >>> 18) &&& 0xff)),
          u8 (((v5 >>> 10) &&& 0xff)),
          u8 (((v5 >>> 2) &&& 0xff)),
          u8 (((((v5) &&& 0x3) <<< 6) ||| ((v6 >>> 25) &&& 0x3f))),
          u8 (((v6 >>> 17) &&& 0xff)),
          u8 (((v6 >>> 9) &&& 0xff)),
          u8 (((v6 >>> 1) &&& 0xff)),
          u8 (((((v6) &&& 0x1) <<< 7) ||| ((v7 >>> 24) &&& 0x7f))),
          u8 (((v7 >>> 16) &&& 0xff)),
          u8 (((v7 >>> 8) &&& 0xff)),
          u8 (((v7) &&& 0xff)) ] := rfl
  obtain ⟨A0, S0, hT0, hA0, hS0⟩ :=
    streamT_decomp 31 [(v0, 31), (v1, 31), (v2, 31), (v3, 31), (v4, 31), (v5, 31), (v6, 31), (v7, 31)] [] [(v1, 31), (v2, 31), (v3, 31), (v4, 31), (v5, 31), (v6, 31), (v7, 31)] v0 31 0 rfl rfl hvs
      (by norm_num [List.map_cons, List.map_nil, List.sum_cons, List.sum_nil])
  obtain ⟨A1, S1, hT1, hA1, hS1⟩ :=
    streamT_decomp 31 [(v0, 31), (v1, 31), (v2, 31), (v3, 31), (v4, 31), (v5, 31), (v6, 31), (v7, 31)] [(v0, 31)] [(v2, 31), (v3, 31), (v4, 31), (v5, 31), (v6, 31), (v7, 31)] v1 31 31 rfl rfl hvs
      (by norm_num [List.map_cons, List.map_nil, List.sum_cons, List.sum_nil])
  obtain ⟨A2, S2, hT2, hA2, hS2⟩ :=
    streamT_decomp 31 [(v0, 31), (v1, 31), (v2, 31), (v3, 31), (v4, 31), (v5, 31), (v6, 31), (v7, 31)] [(v0, 31), (v1, 31)] [(v3, 31), (v4, 31), (v5, 31), (v6, 31), (v7, 31)] v2 31 62 rfl rfl hvs
      (by norm_num [List.map_cons, List.map_nil, List.sum_cons, List.sum_nil])
  obtain ⟨A3, S3, hT3, hA3, hS3⟩ :=
    streamT_decomp 31 [(v0, 31), (v1, 31), (v2, 31), (v3, 31), (v4, 31), (v5, 31), (v6, 31), (v7, 31)] [(v0, 31), (v1, 31), (v2, 31)] [(v4, 31), (v5, 31), (v6, 31), (v7, 31)] v3 31 93 rfl rfl hvs
      (by norm_num [List.map_cons, List.map_nil, List.sum_cons, List.sum_nil])
  obtain ⟨A4, S4, hT4, hA4, hS4⟩ :=
    streamT_decomp 31 [(v0, 31), (v1, 31), (v2, 31), (v3, 31), (v4, 31), (v5, 31), (v6, 31), (v7, 31)] [(v0, 31), (v1, 31), (v2, 31), (v3, 31)] [(v5, 31), (v6, 31), (v7, 31)] v4 31 124 rfl rfl hvs
      (by norm_num [List.map_cons, List.map_nil, List.sum_cons, List.sum_nil])
  obtain ⟨A5, S5, hT5, hA5, hS5⟩ :=
    streamT_decomp 31 [(v0, 31), (v1, 31), (v2, 31), (v3, 31), (v4, 31), (v5, 31), (v6, 31), (v7, 31)] [(v0, 31), (v1, 31), (v2, 31), (v3, 31), (v4, 31)] [(v6, 31), (v7, 31)] v5 31 155 rfl rfl hvs
      (by norm_num [List.map_cons, List.map_nil, List.sum_cons, List.sum_nil])
  obtain ⟨A6, S6, hT6, hA6, hS6⟩ :=
    streamT_decomp 31 [(v0, 31), (v1, 31), (v2, 31), (v3, 31), (v4, 31), (v5, 31), (v6, 31), (v7, 31)] [(v0, 31), (v1, 31), (v2, 31), (v3, 31), (v4, 31), (v5, 31)] [(v7, 31)] v6 31 186 rfl rfl hvs
      (by norm_num [List.map_cons, List.map_nil, List.sum_cons, List.sum_nil])
  obtain ⟨A7, S7, hT7, hA7, hS7⟩ :=
    streamT_decomp 31 [(v0, 31), (v1, 31), (v2, 31), (v3, 31), (v4, 31), (v5, 31), (v6, 31), (v7, 31)] [(v0, 31), (v1, 31), (v2, 31), (v3, 31), (v4, 31), (v5, 31), (v6, 31)] [] v7 31 217 rfl rfl hvs
      (by norm_num [List.map_cons, List.map_nil, List.sum_cons, List.sum_nil])
  obtain ⟨B0, R0, hU0, hB0, hR0⟩ :=
    streamT_decomp2 31 [(v0, 31), (v1, 31), (v2, 31), (v3, 31), (v4, 31), (v5, 31), (v6, 31), (v7, 31)] [] [(v2, 31), (v3, 31), (v4, 31), (v5, 31), (v6, 31), (v7, 31)] v0 v1 31 31 0 rfl rfl hvs
      (by norm_num [List.map_cons, List.map_nil, List.sum_cons, List.sum_nil])
  obtain ⟨B1, R1, hU1, hB1, hR1⟩ :=
    streamT_decomp2 31 [(v0, 31), (v1, 31), (v2, 31), (v3, 31), (v4, 31), (v5, 31), (v6, 31), (v7, 31)] [(v0, 31)] [(v3, 31), (v4, 31), (v5, 31), (v6, 31), (v7, 31)] v1 v2 31 31 31 rfl rfl hvs
      (by norm_num [List.map_cons, List.map_nil, List.sum_cons, List.sum_nil])
  obtain ⟨B2, R2, hU2, hB2, hR2⟩ :=
    streamT_decomp2 31 [(v0, 31), (v1, 31), (v2, 31), (v3, 31), (v4, 31), (v5, 31), (v6, 31), (v7, 31)] [(v0, 31), (v1, 31)] [(v4, 31), (v5, 31), (v6, 31), (v7, 31)] v2 v3 31 31 62 rfl rfl hvs
      (by norm_num [List.map_cons, List.map_nil, List.sum_cons, List.sum_nil])
  obtain ⟨B3, R3, hU3, hB3, hR3⟩ :=
    streamT_decomp2 31 [(v0, 31), (v1, 31), (v2, 31), (v3, 31), (v4, 31), (v5, 31), (v6, 31), (v7, 31)] [(v0, 31), (v1, 31), (v2, 31)] [(v5, 31), (v6, 31), (v7, 31)] v3 v4 31 31 93 rfl rfl hvs
      (by norm_num [List.map_cons, List.map_nil, List.sum_cons, List.sum_nil])
  obtain ⟨B4, R4, hU4, hB4, hR4⟩ :=
    streamT_decomp2 31 [(v0, 31), (v1, 31), (v2, 31), (v3, 31), (v4, 31), (v5, 31), (v6, 31), (v7, 31)] [(v0, 31), (v1, 31), (v2, 31), (v3, 31)] [(v6, 31), (v7, 31)] v4 v5 31 31 124 rfl rfl hvs
      (by norm_num [List.map_cons, List.map_nil, List.sum_cons, List.sum_nil])
  obtain ⟨B5, R5, hU5, hB5, hR5⟩ :=
    streamT_decomp2 31 [(v0, 31), (v1, 31), (v2, 31), (v3, 31), (v4, 31), (v5, 31), (v6, 31), (v7, 31)] [(v0, 31), (v1, 31), (v2, 31), (v3, 31), (v4, 31)] [(v7, 31)] v5 v6 31 31 155 rfl rfl hvs
      (by norm_num [List.map_cons, List.map_nil, List.sum_cons, List.sum_nil])
  obtain ⟨B6, R6, hU6, hB6, hR6⟩ :=
    streamT_decomp2 31 [(v0, 31), (v1, 31), (v2, 31), (v3, 31), (v4, 31), (v5, 31), (v6, 31), (v7, 31)] [(v0, 31), (v1, 31), (v2, 31), (v3, 31), (v4, 31), (v5, 31)] [] v6 v7 31 31 186 rfl rfl hvs
      (by norm_num [List.map_cons, List.map_nil, List.sum_cons, List.sum_nil])
  rw [key, key2]
  simp only [List.cons.injEq]
  refine ⟨?_, ?_, ?_, ?_, ?_, ?_, ?_, ?_, ?_, ?_, ?_, ?_, ?_, ?_, ?_, ?_, ?_, ?_, ?_, ?_, ?_, ?_, ?_, ?_, ?_, ?_, ?_, ?_, ?_, ?_, ?_, trivial⟩
  · rw [hT0]
    exact byteSpec_mid 31 A0 v0 S0 (8 * 31 - 0 - 31) 31 0 23 hA0 hS0
      (by norm_num) (by norm_num)
  · rw [hT0]
    exact byteSpec_mid 31 A0 v0 S0 (8 * 31 - 0 - 31) 31 1 15 hA0 hS0
      (by norm_num) (by norm_num)
  · rw [hT0]
    exact byteSpec_mid 31 A0 v0 S0 (8 * 31 - 0 - 31) 31 2 7 hA0 hS0
      (by norm_num) (by norm_num)
  · rw [hU0]
    exact byteSpec_bnd 31 B0 v0 v1 R0 (8 * 31 - 0 - 31 - 31) 3 7 1 30 127 1 31 hB0 hv0 hv1 hR0
      (by norm_num) (by norm_num) (by norm_num) (by norm_num) (by norm_num)
  · rw [hT1]
    exact byteSpec_mid 31 A1 v1 S1 (8 * 31 - 31 - 31) 31 4 22 hA1 hS1
      (by norm_num) (by norm_num)
  · rw [hT1]
    exact byteSpec_mid 31 A1 v1 S1 (8 * 31 - 31 - 31) 31 5 14 hA1 hS1
      (by norm_num) (by norm_num)
  · rw [hT1]
    exact byteSpec_mid 31 A1 v1 S1 (8 * 31 - 31 - 31) 31 6 6 hA1 hS1
      (by norm_num) (by norm_num)
  · rw [hU1]
    exact byteSpec_bnd 31 B1 v1 v2 R1 (8 * 31 - 31 - 31 - 31) 7 6 2 29 63 3 31 hB1 hv1 hv2 hR1
      (by norm_num) (by norm_num) (by norm_num) (by norm_num) (by norm_num)
  · rw [hT2]
    exact byteSpec_mid 31 A2 v2 S2 (8 * 31 - 62 - 31) 31 8 21 hA2 hS2
      (by norm_num) (by norm_num)
  · rw [hT2]
    exact byteSpec_mid 31 A2 v2 S2 (8 * 31 - 62 - 31) 31 9 13 hA2 hS2
      (by norm_num) (by norm_num)
  · rw [hT2]
    exact byteSpec_mid 31 A2 v2 S2 (8 * 31 - 62 - 31) 31 10 5 hA2 hS2
      (by norm_num) (by norm_num)
  · rw [hU2]
    exact byteSpec_bnd 31 B2 v2 v3 R2 (8 * 31 - 62 - 31 - 31) 11 5 3 28 31 7 31 hB2 hv2 hv3 hR2
      (by norm_num) (by norm_num) (by norm_num) (by norm_num) (by norm_num)
  · rw [hT3]
    exact byteSpec_mid 31 A3 v3 S3 (8 * 31 - 93 - 31) 31 12 20 hA3 hS3
      (by norm_num) (by norm_num)
  · rw [hT3]
    exact byteSpec_mid 31 A3 v3 S3 (8 * 31 - 93 - 31) 31 13 12 hA3 hS3
      (by norm_num) (by norm_num)
  · rw [hT3]
    exact byteSpec_mid 31 A3 v3 S3 (8 * 31 - 93 - 31) 31 14 4 hA3 hS3
      (by norm_num) (by norm_num)
  · rw [hU3]
    exact byteSpec_bnd 31 B3 v3 v4 R3 (8 * 31 - 93 - 31 - 31) 15 4 4 27 15 15 31 hB3 hv3 hv4 hR3
      (by norm_num) (by norm_num) (by norm_num) (by norm_num) (by norm_num)
  · rw [hT4]
    exact byteSpec_mid 31 A4 v4 S4 (8 * 31 - 124 - 31) 31 16 19 hA4 hS4
      (by norm_num) (by norm_num)
  · rw [hT4]
    exact byteSpec_mid 31 A4 v4 S4 (8 * 31 - 124 - 31) 31 17 11 hA4 hS4
      (by norm_num) (by norm_num)
  · rw [hT4]
    exact byteSpec_mid 31 A4 v4 S4 (8 * 31 - 124 - 31) 31 18 3 hA4 hS4
      (by norm_num) (by norm_num)
  · rw [hU4]
    exact byteSpec_bnd 31 B4 v4 v5 R4 (8 * 31 - 124 - 31 - 31) 19 3 5 26 7 31 31 hB4 hv4 hv5 hR4
      (by norm_num) (by norm_num) (by norm_num) (by norm_num) (by norm_num)
  · rw [hT5]
    exact byteSpec_mid 31 A5 v5 S5 (8 * 31 - 155 - 31) 31 20 18 hA5 hS5
      (by norm_num) (by norm_num)
  · rw [hT5]
    exact byteSpec_mid 31 A5 v5 S5 (8 * 31 - 155 - 31) 31 21 10 hA5 hS5
      (by norm_num) (by norm_num)
  · rw [hT5]
    exact byteSpec_mid 31 A5 v5 S5 (8 * 31 - 155 - 31) 31 22 2 hA5 hS5
      (by norm_num) (by norm_num)
  · rw [hU5]
    exact byteSpec_bnd 31 B5 v5 v6 R5 (8 * 31 - 155 - 31 - 31) 23 2 6 25 3 63 31 hB5 hv5 hv6 hR5
      (by norm_num) (by norm_num) (by norm_num) (by norm_num) (by norm_num)
  · rw [hT6]
    exact byteSpec_mid 31 A6 v6 S6 (8 * 31 - 186 - 31) 31 24 17 hA6 hS6
      (by norm_num) (by norm_num)
  · rw [hT6]
    exact byteSpec_mid 31 A6 v6 S6 (8 * 31 - 186 - 31) 31 25 9 hA6 hS6
      (by norm_num) (by norm_num)
  · rw [hT6]
    exact byteSpec_mid 31 A6 v6 S6 (8 * 31 - 186 - 31) 31 26 1 hA6 hS6
      (by norm_num) (by norm_num)
  · rw [hU6]
    exact byteSpec_bnd 31 B6 v6 v7 R6 (8 * 31 - 186 - 31 - 31) 27 1 7 24 1 127 31 hB6 hv6 hv7 hR6
      (by norm_num) (by norm_num) (by norm_num) (by norm_num) (by norm_num)
  · rw [hT7]
    exact byteSpec_mid 31 A7 v7 S7 (8 * 31 - 217 - 31) 31 28 16 hA7 hS7
      (by norm_num) (by norm_num)
  · rw [hT7]
    exact byteSpec_mid 31 A7 v7 S7 (8 * 31 - 217 - 31) 31 29 8 hA7 hS7
      (by norm_num) (by norm_num)
  · rw [hT7]
    exact byteSpec_mid0 31 A7 v7 S7 (8 * 31 - 217 - 31) 31 30 hA7 hS7
      (by norm_num) (by norm_num)

set_option maxRecDepth 16000 in
set_option maxHeartbeats 1000000 in
theorem c5_pack_eq_32 (v0 v1 v2 v3 v4 v5 v6 v7 : Nat) (hv0 : v0 < 2 ^ 32) (hv1 : v1 < 2 ^ 32) (hv2 : v2 < 2 ^ 32) (hv3 : v3 < 2 ^ 32) (hv4 : v4 < 2 ^ 32) (hv5 : v5 < 2 ^ 32) (hv6 : v6 < 2 ^ 32) (hv7 : v7 < 2 ^ 32) :
    (packSeq (BitPacker.new (List.replicate 32 0)) [(v0, 32), (v1, 32), (v2, 32), (v3, 32), (v4, 32), (v5, 32), (v6, 32), (v7, 32)]).bytes
      = pack_bits_32 v0 v1 v2 v3 v4 v5 v6 v7 := by
  have hvs : ∀ p ∈ ([(v0, 32), (v1, 32), (v2, 32), (v3, 32), (v4, 32), (v5, 32), (v6, 32), (v7, 32)] : List (Nat × Nat)), p.1 < 2 ^ p.2 := by
    intro p hp
    simp only [List.mem_cons, List.not_mem_nil, or_false] at hp
    rcases hp with rfl | rfl | rfl | rfl | rfl | rfl | rfl | rfl
    exacts [hv0, hv1, hv2, hv3, hv4, hv5, hv6, hv7]
  obtain ⟨-, -, -, ⟨hlen, hbytes⟩, -, -⟩ :=
    packSeq_inv 32 [(v0, 32), (v1, 32), (v2, 32), (v3, 32), (v4, 32), (v5, 32), (v6, 32), (v7, 32)] 0 0 _ hvs
      (by norm_num [List.map_cons, List.map_nil, List.sum_cons, List.sum_nil]) (packInv_init 32)
  have key : (packSeq (BitPacker.new (List.replicate 32 0)) [(v0, 32), (v1, 32), (v2, 32), (v3, 32), (v4, 32), (v5, 32), (v6, 32), (v7, 32)]).bytes
      = [ ByteSpec 32 (streamT 32 [(v0, 32), (v1, 32), (v2, 32), (v3, 32), (v4, 32), (v5, 32), (v6, 32), (v7, 32)] 0 0) 0,
          ByteSpec 32 (streamT 32 [(v0, 32), (v1, 32), (v2, 32), (v3, 32), (v4, 32), (v5, 32), (v6, 32), (v7, 32)] 0 0) 1,
          ByteSpec 32 (streamT 32 [(v0, 32), (v1, 32), (v2, 32), (v3, 32), (v4, 32), (v5, 32), (v6, 32), (v7, 32)] 0 0) 2,
          ByteSpec 32 (streamT 32 [(v0, 32), (v1, 32), (v2, 32), (v3, 32), (v4, 32), (v5, 32), (v6, 32), (v7, 32)] 0 0) 3,
          ByteSpec 32 (streamT 32 [(v0, 32), (v1, 32), (v2, 32), (v3, 32), (v4, 32), (v5, 32), (v6, 32), (v7, 32)] 0 0) 4,
          ByteSpec 32 (streamT 32 [(v0, 32), (v1, 32), (v2, 32), (v3, 32), (v4, 32), (v5, 32), (v6, 32), (v7, 32)] 0 0) 5,
          ByteSpec 32 (streamT 32 [(v0, 32), (v1, 32), (v2, 32), (v3, 32), (v4, 32), (v5, 32), (v6, 32), (v7, 32)] 0 0) 6,
          ByteSpec 32 (streamT 32 [(v0, 32), (v1, 32), (v2, 32), (v3, 32), (v4, 32), (v5, 32), (v6, 32), (v7, 32)] 0 0) 7,
          ByteSpec 32 (streamT 32 [(v0, 32), (v1, 32), (v2, 32), (v3, 32), (v4, 32), (v5, 32), (v6, 32), (v7, 32)] 0 0) 8,
          ByteSpec 32 (streamT 32 [(v0, 32), (v1, 32), (v2, 32), (v3, 32), (v4, 32), (v5, 32), (v6, 32), (v7, 32)] 0 0) 9,
          ByteSpec 32 (streamT 32 [(v0, 32), (v1, 32), (v2, 32), (v3, 32), (v4, 32), (v5, 32), (v6, 32), (v7, 32)] 0 0) 10,
          ByteSpec 32 (streamT 32 [(v0, 32), (v1, 32), (v2, 32), (v3, 32), (v4, 32), (v5, 32), (v6, 32), (v7, 32)] 0 0) 11,
          ByteSpec 32 (streamT 32 [(v0, 32), (v1, 32), (v2, 32), (v3, 32), (v4, 32), (v5, 32), (v6, 32), (v7, 32)] 0 0) 12,
          ByteSpec 32 (streamT 32 [(v0, 32), (v1, 32), (v2, 32), (v3, 32), (v4, 32), (v5, 32), (v6, 32), (v7, 32)] 0 0) 13,
          ByteSpec 32 (streamT 32 [(v0, 32), (v1, 32), (v2, 32), (v3, 32), (v4, 32), (v5, 32), (v6, 32), (v7, 32)] 0 0) 14,
          ByteSpec 32 (streamT 32 [(v0, 32), (v1, 32), (v2, 32), (v3, 32), (v4, 32), (v5, 32), (v6, 32), (v7, 32)] 0 0) 15,
          ByteSpec 32 (streamT 32 [(v0, 32), (v1, 32), (v2, 32), (v3, 32), (v4, 32), (v5, 32), (v6, 32), (v7, 32)] 0 0) 16,
          ByteSpec 32 (streamT 32 [(v0, 32), (v1, 32), (v2, 32), (v3, 32), (v4, 32), (v5, 32), (v6, 32), (v7, 32)] 0 0) 17,
          ByteSpec 32 (streamT 32 [(v0, 32), (v1, 32), (v2, 32), (v3, 32), (v4, 32), (v5, 32), (v6, 32), (v7, 32)] 0 0) 18,
          ByteSpec 32 (streamT 32 [(v0, 32), (v1, 32), (v2, 32), (v3, 32), (v4, 32), (v5, 32), (v6, 32), (v7, 32)] 0 0) 19,
          ByteSpec 32 (streamT 32 [(v0, 32), (v1, 32), (v2, 32), (v3, 32), (v4, 32), (v5, 32), (v6, 32), (v7, 32)] 0 0) 20,
          ByteSpec 32 (streamT 32 [(v0, 32), (v1, 32), (v2, 32), (v3, 32), (v4, 32), (v5, 32), (v6, 32), (v7, 32)] 0 0) 21,
          ByteSpec 32 (streamT 32 [(v0, 32), (v1, 32), (v2, 32), (v3, 32), (v4, 32), (v5, 32), (v6, 32), (v7, 32)] 0 0) 22,
          ByteSpec 32 (streamT 32 [(v0, 32), (v1, 32), (v2, 32), (v3, 32), (v4, 32), (v5, 32), (v6, 32), (v7, 32)] 0 0) 23,
          ByteSpec 32 (streamT 32 [(v0, 32), (v1, 32), (v2, 32), (v3, 32), (v4, 32), (v5, 32), (v6, 32), (v7, 32)] 0 0) 24,
          ByteSpec 32 (streamT 32 [(v0, 32), (v1, 32), (v2, 32), (v3, 32), (v4, 32), (v5, 32), (v6, 32), (v7, 32)] 0 0) 25,
          ByteSpec 32 (streamT 32 [(v0, 32), (v1, 32), (v2, 32), (v3, 32), (v4, 32), (v5, 32), (v6, 32), (v7, 32)] 0 0) 26,
          ByteSpec 32 (streamT 32 [(v0, 32), (v1, 32), (v2, 32), (v3, 32), (v4, 32), (v5, 32), (v6, 32), (v7, 32)] 0 0) 27,
          ByteSpec 32 (streamT 32 [(v0, 32), (v1, 32), (v2, 32), (v3, 32), (v4, 32), (v5, 32), (v6, 32), (v7, 32)] 0 0) 28,
          ByteSpec 32 (streamT 32 [(v0, 32), (v1, 32), (v2, 32), (v3, 32), (v4, 32), (v5, 32), (v6, 32), (v7, 32)] 0 0) 29,
          ByteSpec 32 (streamT 32 [(v0, 32), (v1, 32), (v2, 32), (v3, 32), (v4, 32), (v5, 32), (v6, 32), (v7, 32)] 0 0) 30,
          ByteSpec 32 (streamT 32 [(v0, 32), (v1, 32), (v2, 32), (v3, 32), (v4, 32), (v5, 32), (v6, 32), (v7, 32)] 0 0) 31 ] :=
    (list_eq_map_range_of_getD _ _ 32 hlen hbytes).trans (by rfl)
  have key2 : pack_bits_32 v0 v1 v2 v3 v4 v5 v6 v7
      = [ u8 (((v0 >>> 24) &&& 0xff)),
          u8 (((v0 >>> 16) &&& 0xff)),
          u8 (((v0 >>> 8) &&& 0xff)),
          u8 (((v0) &&& 0xff)),
          u8 (((v1 >>> 24) &&& 0xff)),
          u8 (((v1 >>> 16) &&& 0xff)),
          u8 (((v1 >>> 8) &&& 0xff)),
          u8 (((v1) &&& 0xff)),
          u8 (((v2 >>> 24) &&& 0xff)),
          u8 (((v2 >>> 16) &&& 0xff)),
          u8 (((v2 >>> 8) &&& 0xff)),
          u8 (((v2) &&& 0xff)),
          u8 (((v3 >>> 24) &&& 0xff)),
          u8 (((v3 >>> 16) &&& 0xff)),
          u8 (((v3 >>> 8) &&& 0xff)),
          u8 (((v3) &&& 0xff)),
          u8 (((v4 >>> 24) &&& 0xff)),
          u8 (((v4 >>> 16) &&& 0xff)),
          u8 (((v4 >>> 8) &&& 0xff)),
          u8 (((v4) &&& 0xff)),
          u8 (((v5 >>> 24) &&& 0xff)),
          u8 (((v5 >>> 16) &&& 0xff)),
          u8 (((v5 >>> 8) &&& 0xff)),
          u8 (((v5) &&& 0xff)),
          u8 (((v6 >>> 24) &&& 0xff)),
          u8 (((v6 >>> 16) &&& 0xff)),
          u8 (((v6 >>> 8) &&& 0xff)),
          u8 (((v6) &&& 0xff)),
          u8 (((v7 >>> 24) &&& 0xff)),
          u8 (((v7 >>> 16) &&& 0xff)),
          u8 (((v7 >>> 8) &&& 0xff)),
          u8 (((v7) &&& 0xff)) ] := rfl
  obtain ⟨A0, S0, hT0, hA0, hS0⟩ :=
    streamT_decomp 32 [(v0, 32), (v1, 32), (v2, 32), (v3, 32), (v4, 32), (v5, 32), (v6, 32), (v7, 32)] [] [(v1, 32), (v2, 32), (v3, 32), (v4, 32), (v5, 32), (v6, 32), (v7, 32)] v0 32 0 rfl rfl hvs
      (by norm_num [List.map_cons, List.map_nil, List.sum_cons, List.sum_nil])
  obtain ⟨A1, S1, hT1, hA1, hS1⟩ :=
    streamT_decomp 32 [(v0, 32), (v1, 32), (v2, 32), (v3, 32), (v4, 32), (v5, 32), (v6, 32), (v7, 32)] [(v0, 32)] [(v2, 32), (v3, 32), (v4, 32), (v5, 32), (v6, 32), (v7, 32)] v1 32 32 rfl rfl hvs
      (by norm_num [List.map_cons, List.map_nil, List.sum_cons, List.sum_nil])
  obtain ⟨A2, S2, hT2, hA2, hS2⟩ :=
    streamT_decomp 32 [(v0, 32), (v1, 32), (v2, 32), (v3, 32), (v4, 32), (v5, 32), (v6, 32), (v7, 32)] [(v0, 32), (v1, 32)] [(v3, 32), (v4, 32), (v5, 32), (v6, 32), (v7, 32)] v2 32 64 rfl rfl hvs
      (by norm_num [List.map_cons, List.map_nil, List.sum_cons, List.sum_nil])
  obtain ⟨A3, S3, hT3, hA3, hS3⟩ :=
    streamT_decomp 32 [(v0, 32), (v1, 32), (v2, 32), (v3, 32), (v4, 32), (v5, 32), (v6, 32), (v7, 32)] [(v0, 32), (v1, 32), (v2, 32)] [(v4, 32), (v5, 32), (v6, 32), (v7, 32)] v3 32 96 rfl rfl hvs
      (by norm_num [List.map_cons, List.map_nil, List.sum_cons, List.sum_nil])
  obtain ⟨A4, S4, hT4, hA4, hS4⟩ :=
    streamT_decomp 32 [(v0, 32), (v1, 32), (v2, 32), (v3, 32), (v4, 32), (v5, 32), (v6, 32), (v7, 32)] [(v0, 32), (v1, 32), (v2, 32), (v3, 32)] [(v5, 32), (v6, 32), (v7, 32)] v4 32 128 rfl rfl hvs
      (by norm_num [List.map_cons, List.map_nil, List.sum_cons, List.sum_nil])
  obtain ⟨A5, S5, hT5, hA5, hS5⟩ :=
    streamT_decomp 32 [(v0, 32), (v1, 32), (v2, 32), (v3, 32), (v4, 32), (v5, 32), (v6, 32), (v7, 32)] [(v0, 32), (v1, 32), (v2, 32), (v3, 32), (v4, 32)] [(v6, 32), (v7, 32)] v5 32 160 rfl rfl hvs
      (by norm_num [List.map_cons, List.map_nil, List.sum_cons, List.sum_nil])
  obtain ⟨A6, S6, hT6, hA6, hS6⟩ :=
    streamT_decomp 32 [(v0, 32), (v1, 32), (v2, 32), (v3, 32), (v4, 32), (v5, 32), (v6, 32), (v7, 32)] [(v0, 32), (v1, 32), (v2, 32), (v3, 32), (v4, 32), (v5, 32)] [(v7, 32)] v6 32 192 rfl rfl hvs
      (by norm_num [List.map_cons, List.map_nil, List.sum_cons, List.sum_nil])
  obtain ⟨A7, S7, hT7, hA7, hS7⟩ :=
    streamT_decomp 32 [(v0, 32), (v1, 32), (v2, 32), (v3, 32), (v4, 32), (v5, 32), (v6, 32), (v7, 32)] [(v0, 32), (v1, 32), (v2, 32), (v3, 32), (v4, 32), (v5, 32), (v6, 32)] [] v7 32 224 rfl rfl hvs
      (by norm_num [List.map_cons, List.map_nil, List.sum_cons, List.sum_nil])
  rw [key, key2]
  simp only [List.cons.injEq]
  refine ⟨?_, ?_, ?_, ?_, ?_, ?_, ?_, ?_, ?_, ?_, ?_, ?_, ?_, ?_, ?_, ?_, ?_, ?_, ?_, ?_, ?_, ?_, ?_, ?_, ?_, ?_, ?_, ?_, ?_, ?_, ?_, ?_, trivial⟩
  · rw [hT0]
    exact byteSpec_mid 32 A0 v0 S0 (8 * 32 - 0 - 32) 32 0 24 hA0 hS0
      (by norm_num) (by norm_num)
  · rw [hT0]
    exact byteSpec_mid 32 A0 v0 S0 (8 * 32 - 0 - 32) 32 1 16 hA0 hS0
      (by norm_num) (by norm_num)
  · rw [hT0]
    exact byteSpec_mid 32 A0 v0 S0 (8 * 32 - 0 - 32) 32 2 8 hA0 hS0
      (by norm_num) (by norm_num)
  · rw [hT0]
    exact byteSpec_mid0 32 A0 v0 S0 (8 * 32 - 0 - 32) 32 3 hA0 hS0
      (by norm_num) (by norm_num)
  · rw [hT1]
    exact byteSpec_mid 32 A1 v1 S1 (8 * 32 - 32 - 32) 32 4 24 hA1 hS1
      (by norm_num) (by norm_num)
  · rw [hT1]
    exact byteSpec_mid 32 A1 v1 S1 (8 * 32 - 32 - 32) 32 5 16 hA1 hS1
      (by norm_num) (by norm_num)
  · rw [hT1]
    exact byteSpec_mid 32 A1 v1 S1 (8 * 32 - 32 - 32) 32 6 8 hA1 hS1
      (by norm_num) (by norm_num)
  · rw [hT1]
    exact byteSpec_mid0 32 A1 v1 S1 (8 * 32 - 32 - 32) 32 7 hA1 hS1
      (by norm_num) (by norm_num)
  · rw [hT2]
    exact byteSpec_mid 32 A2 v2 S2 (8 * 32 - 64 - 32) 32 8 24 hA2 hS2
      (by norm_num) (by norm_num)
  · rw [hT2]
    exact byteSpec_mid 32 A2 v2 S2 (8 * 32 - 64 - 32) 32 9 16 hA2 hS2
      (by norm_num) (by norm_num)
  · rw [hT2]
    exact byteSpec_mid 32 A2 v2 S2 (8 * 32 - 64 - 32) 32 10 8 hA2 hS2
      (by norm_num) (by norm_num)
  · rw [hT2]
    exact byteSpec_mid0 32 A2 v2 S2 (8 * 32 - 64 - 32) 32 11 hA2 hS2
      (by norm_num) (by norm_num)
  · rw [hT3]
    exact byteSpec_mid 32 A3 v3 S3 (8 * 32 - 96 - 32) 32 12 24 hA3 hS3
      (by norm_num) (by norm_num)
  · rw [hT3]
    exact byteSpec_mid 32 A3 v3 S3 (8 * 32 - 96 - 32) 32 13 16 hA3 hS3
      (by norm_num) (by norm_num)
  · rw [hT3]
    exact byteSpec_mid 32 A3 v3 S3 (8 * 32 - 96 - 32) 32 14 8 hA3 hS3
      (by norm_num) (by norm_num)
  · rw [hT3]
    exact byteSpec_mid0 32 A3 v3 S3 (8 * 32 - 96 - 32) 32 15 hA3 hS3
      (by norm_num) (by norm_num)
  · rw [hT4]
    exact byteSpec_mid 32 A4 v4 S4 (8 * 32 - 128 - 32) 32 16 24 hA4 hS4
      (by norm_num) (by norm_num)
  · rw [hT4]
    exact byteSpec_mid 32 A4 v4 S4 (8 * 32 - 128 - 32) 32 17 16 hA4 hS4
      (by norm_num) (by norm_num)
  · rw [hT4]
    exact byteSpec_mid 32 A4 v4 S4 (8 * 32 - 128 - 32) 32 18 8 hA4 hS4
      (by norm_num) (by norm_num)
  · rw [hT4]
    exact byteSpec_mid0 32 A4 v4 S4 (8 * 32 - 128 - 32) 32 19 hA4 hS4
      (by norm_num) (by norm_num)
  · rw [hT5]
    exact byteSpec_mid 32 A5 v5 S5 (8 * 32 - 160 - 32) 32 20 24 hA5 hS5
      (by norm_num) (by norm_num)
  · rw [hT5]
    exact byteSpec_mid 32 A5 v5 S5 (8 * 32 - 160 - 32) 32 21 16 hA5 hS5
      (by norm_num) (by norm_num)
  · rw [hT5]
    exact byteSpec_mid 32 A5 v5 S5 (8 * 32 - 160 - 32) 32 22 8 hA5 hS5
      (by norm_num) (by norm_num)
  · rw [hT5]
    exact byteSpec_mid0 32 A5 v5 S5 (8 * 32 - 160 - 32) 32 23 hA5 hS5
      (by norm_num) (by norm_num)
  · rw [hT6]
    exact byteSpec_mid 32 A6 v6 S6 (8 * 32 - 192 - 32) 32 24 24 hA6 hS6
      (by norm_num) (by norm_num)
  · rw [hT6]
    exact byteSpec_mid 32 A6 v6 S6 (8 * 32 - 192 - 32) 32 25 16 hA6 hS6
      (by norm_num) (by norm_num)
  · rw [hT6]
    exact byteSpec_mid 32 A6 v6 S6 (8 * 32 - 192 - 32) 32 26 8 hA6 hS6
      (by norm_num) (by norm_num)
  · rw [hT6]
    exact byteSpec_mid0 32 A6 v6 S6 (8 * 32 - 192 - 32) 32 27 hA6 hS6
      (by norm_num) (by norm_num)
  · rw [hT7]
    exact byteSpec_mid 32 A7 v7 S7 (8 * 32 - 224 - 32) 32 28 24 hA7 hS7
      (by norm_num) (by norm_num)
  · rw [hT7]
    exact byteSpec_mid 32 A7 v7 S7 (8 * 32 - 224 - 32) 32 29 16 hA7 hS7
      (by norm_num) (by norm_num)
  · rw [hT7]
    exact byteSpec_mid 32 A7 v7 S7 (8 * 32 - 224 - 32) 32 30 8 hA7 hS7
      (by norm_num) (by norm_num)
  · rw [hT7]
    exact byteSpec_mid0 32 A7 v7 S7 (8 * 32 - 224 - 32) 32 31 hA7 hS7
      (by norm_num) (by norm_num)

set_option maxRecDepth 16000 in
set_option maxHeartbeats 1000000 in
theorem c5_pack_eq_33 (v0 v1 v2 v3 v4 v5 v6 v7 : Nat) (hv0 : v0 < 2 ^ 33) (hv1 : v1 < 2 ^ 33) (hv2 : v2 < 2 ^ 33) (hv3 : v3 < 2 ^ 33) (hv4 : v4 < 2 ^ 33) (hv5 : v5 < 2 ^ 33) (hv6 : v6 < 2 ^ 33) (hv7 : v7 < 2 ^ 33) :
    (packSeq (BitPacker.new (List.replicate 33 0)) [(v0, 33), (v1, 33), (v2, 33), (v3, 33), (v4, 33), (v5, 33), (v6, 33), (v7, 33)]).bytes
      = pack_bits_33 v0 v1 v2 v3 v4 v5 v6 v7 := by
  have hvs : ∀ p ∈ ([(v0, 33), (v1, 33), (v2, 33), (v3, 33), (v4, 33), (v5, 33), (v6, 33), (v7, 33)] : List (Nat × Nat)), p.1 < 2 ^ p.2 := by
    intro p hp
    simp only [List.mem_cons, List.not_mem_nil, or_false] at hp
    rcases hp with rfl | rfl | rfl | rfl | rfl | rfl | rfl | rfl
    exacts [hv0, hv1, hv2, hv3, hv4, hv5, hv6, hv7]
  obtain ⟨-, -, -, ⟨hlen, hbytes⟩, -, -⟩ :=
    packSeq_inv 33 [(v0, 33), (v1, 33), (v2, 33), (v3, 33), (v4, 33), (v5, 33), (v6, 33), (v7, 33)] 0 0 _ hvs
      (by norm_num [List.map_cons, List.map_nil, List.sum_cons, List.sum_nil]) (packInv_init 33)
  have key : (packSeq (BitPacker.new (List.replicate 33 0)) [(v0, 33), (v1, 33), (v2, 33), (v3, 33), (v4, 33), (v5, 33), (v6, 33), (v7, 33)]).bytes
      = [ ByteSpec 33 (streamT 33 [(v0, 33), (v1, 33), (v2, 33), (v3, 33), (v4, 33), (v5, 33), (v6, 33), (v7, 33)] 0 0) 0,
          ByteSpec 33 (streamT 33 [(v0, 33), (v1, 33), (v2, 33), (v3, 33), (v4, 33), (v5, 33), (v6, 33), (v7, 33)] 0 0) 1,
          ByteSpec 33 (streamT 33 [(v0, 33), (v1, 33), (v2, 33), (v3, 33), (v4, 33), (v5, 33), (v6, 33), (v7, 33)] 0 0) 2,
          ByteSpec 33 (streamT 33 [(v0, 33), (v1, 33), (v2, 33), (v3, 33), (v4, 33), (v5, 33), (v6, 33), (v7, 33)] 0 0) 3,
          ByteSpec 33 (streamT 33 [(v0, 33), (v1, 33), (v2, 33), (v3, 33), (v4, 33), (v5, 33), (v6, 33), (v7, 33)] 0 0) 4,
          ByteSpec 33 (streamT 33 [(v0, 33), (v1, 33), (v2, 33), (v3, 33), (v4, 33), (v5, 33), (v6, 33), (v7, 33)] 0 0) 5,
          ByteSpec 33 (streamT 33 [(v0, 33), (v1, 33), (v2, 33), (v3, 33), (v4, 33), (v5, 33), (v6, 33), (v7, 33)] 0 0) 6,
          ByteSpec 33 (streamT 33 [(v0, 33), (v1, 33), (v2, 33), (v3, 33), (v4, 33), (v5, 33), (v6, 33), (v7, 33)] 0 0) 7,
          ByteSpec 33 (streamT 33 [(v0, 33), (v1, 33), (v2, 33), (v3, 33), (v4, 33), (v5, 33), (v6, 33), (v7, 33)] 0 0) 8,
          ByteSpec 33 (streamT 33 [(v0, 33), (v1, 33), (v2, 33), (v3, 33), (v4, 33), (v5, 33), (v6, 33), (v7, 33)] 0 0) 9,
          ByteSpec 33 (streamT 33 [(v0, 33), (v1, 33), (v2, 33), (v3, 33), (v4, 33), (v5, 33), (v6, 33), (v7, 33)] 0 0) 10,
          ByteSpec 33 (streamT 33 [(v0, 33), (v1, 33), (v2, 33), (v3, 33), (v4, 33), (v5, 33), (v6, 33), (v7, 33)] 0 0) 11,
          ByteSpec 33 (streamT 33 [(v0, 33), (v1, 33), (v2, 33), (v3, 33), (v4, 33), (v5, 33), (v6, 33), (v7, 33)] 0 0) 12,
          ByteSpec 33 (streamT 33 [(v0, 33), (v1, 33), (v2, 33), (v3, 33), (v4, 33), (v5, 33), (v6, 33), (v7, 33)] 0 0) 13,
          ByteSpec 33 (streamT 33 [(v0, 33), (v1, 33), (v2, 33), (v3, 33), (v4, 33), (v5, 33), (v6, 33), (v7, 33)] 0 0) 14,
          ByteSpec 33 (streamT 33 [(v0, 33), (v1, 33), (v2, 33), (v3, 33), (v4, 33), (v5, 33), (v6, 33), (v7, 33)] 0 0) 15,
          ByteSpec 33 (streamT 33 [(v0, 33), (v1, 33), (v2, 33), (v3, 33), (v4, 33), (v5, 33), (v6, 33), (v7, 33)] 0 0) 16,
          ByteSpec 33 (streamT 33 [(v0, 33), (v1, 33), (v2, 33), (v3, 33), (v4, 33), (v5, 33), (v6, 33), (v7, 33)] 0 0) 17,
          ByteSpec 33 (streamT 33 [(v0, 33), (v1, 33), (v2, 33), (v3, 33), (v4, 33), (v5, 33), (v6, 33), (v7, 33)] 0 0) 18,
          ByteSpec 33 (streamT 33 [(v0, 33), (v1, 33), (v2, 33), (v3, 33), (v4, 33), (v5, 33), (v6, 33), (v7, 33)] 0 0) 19,
          ByteSpec 33 (streamT 33 [(v0, 33), (v1, 33), (v2, 33), (v3, 33), (v4, 33), (v5, 33), (v6, 33), (v7, 33)] 0 0) 20,
          ByteSpec 33 (streamT 33 [(v0, 33), (v1, 33), (v2, 33), (v3, 33), (v4, 33), (v5, 33), (v6, 33), (v7, 33)] 0 0) 21,
          ByteSpec 33 (streamT 33 [(v0, 33), (v1, 33), (v2, 33), (v3, 33), (v4, 33), (v5, 33), (v6, 33), (v7, 33)] 0 0) 22,
          ByteSpec 33 (streamT 33 [(v0, 33), (v1, 33), (v2, 33), (v3, 33), (v4, 33), (v5, 33), (v6, 33), (v7, 33)] 0 0) 23,
          ByteSpec 33 (streamT 33 [(v0, 33), (v1, 33), (v2, 33), (v3, 33), (v4, 33), (v5, 33), (v6, 33), (v7, 33)] 0 0) 24,
          ByteSpec 33 (streamT 33 [(v0, 33), (v1, 33), (v2, 33), (v3, 33), (v4, 33), (v5, 33), (v6, 33), (v7, 33)] 0 0) 25,
          ByteSpec 33 (streamT 33 [(v0, 33), (v1, 33), (v2, 33), (v3, 33), (v4, 33), (v5, 33), (v6, 33), (v7, 33)] 0 0) 26,
          ByteSpec 33 (streamT 33 [(v0, 33), (v1, 33), (v2, 33), (v3, 33), (v4, 33), (v5, 33), (v6, 33), (v7, 33)] 0 0) 27,
          ByteSpec 33 (streamT 33 [(v0, 33), (v1, 33), (v2, 33), (v3, 33), (v4, 33), (v5, 33), (v6, 33), (v7, 33)] 0 0) 28,
          ByteSpec 33 (streamT 33 [(v0, 33), (v1, 33), (v2, 33), (v3, 33), (v4, 33), (v5, 33), (v6, 33), (v7, 33)] 0 0) 29,
          ByteSpec 33 (streamT 33 [(v0, 33), (v1, 33), (v2, 33), (v3, 33), (v4, 33), (v5, 33), (v6, 33), (v7, 33)] 0 0) 30,
          ByteSpec 33 (streamT 33 [(v0, 33), (v1, 33), (v2, 33), (v3, 33), (v4, 33), (v5, 33), (v6, 33), (v7, 33)] 0 0) 31,
          ByteSpec 33 (streamT 33 [(v0, 33), (v1, 33), (v2, 33), (v3, 33), (v4, 33), (v5, 33), (v6, 33), (v7, 33)] 0 0) 32 ] :=
    (list_eq_map_range_of_getD _ _ 33 hlen hbytes).trans (by rfl)
  have key2 : pack_bits_33 v0 v1 v2 v3 v4 v5 v6 v7
      = [ u8 (((v0 >>> 25) &&& 0xff)),
          u8 (((v0 >>> 17) &&& 0xff)),
          u8 (((v0 >>> 9) &&& 0xff)),
          u8 (((v0 >>> 1) &&& 0xff)),
          u8 (((((v0) &&& 0x1) <<< 7) ||| ((v1 >>> 26) &&& 0x7f))),
          u8 (((v1 >>> 18) &&& 0xff)),
          u8 (((v1 >>> 10) &&& 0xff)),
          u8 (((v1 >>> 2) &&& 0xff)),
          u8 (((((v1) &&& 0x3) <<< 6) ||| ((v2 >>> 27) &&& 0x3f))),
          u8 (((v2 >>> 19) &&& 0xff)),
          u8 (((v2 >>> 11) &&& 0xff)),
          u8 (((v2 >>> 3) &&& 0xff)),
          u8 (((((v2) &&& 0x7) <<< 5) ||| ((v3 >>> 28) &&& 0x1f))),
          u8 (((v3 >>> 20) &&& 0xff)),
          u8 (((v3 >>> 12) &&& 0xff)),
          u8 (((v3 >>> 4) &&& 0xff)),
          u8 (((((v3) &&& 0xf) <<< 4) ||| ((v4 >>> 29) &&& 0xf))),
          u8 (((v4 >>> 21) &&& 0xff)),
          u8 (((v4 >>> 13) &&& 0xff)),
          u8 (((v4 >>> 5) &&& 0xff)),
          u8 (((((v4) &&& 0x1f) <<< 3) ||| ((v5 >>> 30) &&& 0x7))),
          u8 (((v5 >>> 22) &&& 0xff)),
          u8 (((v5 >>> 14) &&& 0xff)),
          u8 (((v5 >>> 6) &&& 0xff)),
          u8 (((((v5) &&& 0x3f) <<< 2) ||| ((v6 >>> 31) &&& 0x3))),
          u8 (((v6 >>> 23) &&& 0xff)),
          u8 (((v6 >>> 15) &&& 0xff)),
          u8 (((v6 >>> 7) &&& 0xff)),
          u8 (((((v6) &&& 0x7f) <<< 1) ||| ((v7 >>> 32) &&& 0x1))),
          u8 (((v7 >>> 24) &&& 0xff)),
          u8 (((v7 >>> 16) &&& 0xff)),
          u8 (((v7 >>> 8) &&& 0xff)),
          u8 (((v7) &&& 0xff)) ] := rfl
  obtain ⟨A0, S0, hT0, hA0, hS0⟩ :=
    streamT_decomp 33 [(v0, 33), (v1, 33), (v2, 33), (v3, 33), (v4, 33), (v5, 33), (v6, 33), (v7, 33)] [] [(v1, 33), (v2, 33), (v3, 33), (v4, 33), (v5, 33), (v6, 33), (v7, 33)] v0 33 0 rfl rfl hvs
      (by norm_num [List.map_cons, List.map_nil, List.sum_cons, List.sum_nil])
  obtain ⟨A1, S1, hT1, hA1, hS1⟩ :=
    streamT_decomp 33 [(v0, 33), (v1, 33), (v2, 33), (v3, 33), (v4, 33), (v5, 33), (v6, 33), (v7, 33)] [(v0, 33)] [(v2, 33), (v3, 33), (v4, 33), (v5, 33), (v6, 33), (v7, 33)] v1 33 33 rfl rfl hvs
      (by norm_num [List.map_cons, List.map_nil, List.sum_cons, List.sum_nil])
  obtain ⟨A2, S2, hT2, hA2, hS2⟩ :=
    streamT_decomp 33 [(v0, 33), (v1, 33), (v2, 33), (v3, 33), (v4, 33), (v5, 33), (v6, 33), (v7, 33)] [(v0, 33), (v1, 33)] [(v3, 33), (v4, 33), (v5, 33), (v6, 33), (v7, 33)] v2 33 66 rfl rfl hvs
      (by norm_num [List.map_cons, List.map_nil, List.sum_cons, List.sum_nil])
  obtain ⟨A3, S3, hT3, hA3, hS3⟩ :=
    streamT_decomp 33 [(v0, 33), (v1, 33), (v2, 33), (v3, 33), (v4, 33), (v5, 33), (v6, 33), (v7, 33)] [(v0, 33), (v1, 33), (v2, 33)] [(v4, 33), (v5, 33), (v6, 33), (v7, 33)] v3 33 99 rfl rfl hvs
      (by norm_num [List.map_cons, List.map_nil, List.sum_cons, List.sum_nil])
  obtain ⟨A4, S4, hT4, hA4, hS4⟩ :=
    streamT_decomp 33 [(v0, 33), (v1, 33), (v2, 33), (v3, 33), (v4, 33), (v5, 33), (v6, 33), (v7, 33)] [(v0, 33), (v1, 33), (v2, 33), (v3, 33)] [(v5, 33), (v6, 33), (v7, 33)] v4 33 132 rfl rfl hvs
      (by norm_num [List.map_cons, List.map_nil, List.sum_cons, List.sum_nil])
  obtain ⟨A5, S5, hT5, hA5, hS5⟩ :=
    streamT_decomp 33 [(v0, 33), (v1, 33), (v2, 33), (v3, 33), (v4, 33), (v5, 33), (v6, 33), (v7, 33)] [(v0, 33), (v1, 33), (v2, 33), (v3, 33), (v4, 33)] [(v6, 33), (v7, 33)] v5 33 165 rfl rfl hvs
      (by norm_num [List.map_cons, List.map_nil, List.sum_cons, List.sum_nil])
  obtain ⟨A6, S6, hT6, hA6, hS6⟩ :=
    streamT_decomp 33 [(v0, 33), (v1, 33), (v2, 33), (v3, 33), (v4, 33), (v5, 33), (v6, 33), (v7, 33)] [(v0, 33), (v1, 33), (v2, 33), (v3, 33), (v4, 33), (v5, 33)] [(v7, 33)] v6 33 198 rfl rfl hvs
      (by norm_num [List.map_cons, List.map_nil, List.sum_cons, List.sum_nil])
  obtain ⟨A7, S7, hT7, hA7, hS7⟩ :=
    streamT_decomp 33 [(v0, 33), (v1, 33), (v2, 33), (v3, 33), (v4, 33), (v5, 33), (v6, 33), (v7, 33)] [(v0, 33), (v1, 33), (v2, 33), (v3, 33), (v4, 33), (v5, 33), (v6, 33)] [] v7 33 231 rfl rfl hvs
      (by norm_num [List.map_cons, List.map_nil, List.sum_cons, List.sum_nil])
  obtain ⟨B0, R0, hU0, hB0, hR0⟩ :=
    streamT_decomp2 33 [(v0, 33), (v1, 33), (v2, 33), (v3, 33), (v4, 33), (v5, 33), (v6, 33), (v7, 33)] [] [(v2, 33), (v3, 33), (v4, 33), (v5, 33), (v6, 33), (v7, 33)] v0 v1 33 33 0 rfl rfl hvs
      (by norm_num [List.map_cons, List.map_nil, List.sum_cons, List.sum_nil])
  obtain ⟨B1, R1, hU1, hB1, hR1⟩ :=
    streamT_decomp2 33 [(v0, 33), (v1, 33), (v2, 33), (v3, 33), (v4, 33), (v5, 33), (v6, 33), (v7, 33)] [(v0, 33)] [(v3, 33), (v4, 33), (v5, 33), (v6, 33), (v7, 33)] v1 v2 33 33 33 rfl rfl hvs
      (by norm_num [List.map_cons, List.map_nil, List.sum_cons, List.sum_nil])
  obtain ⟨B2, R2, hU2, hB2, hR2⟩ :=
    streamT_decomp2 33 [(v0, 33), (v1, 33), (v2, 33), (v3, 33), (v4, 33), (v5, 33), (v6, 33), (v7, 33)] [(v0, 33), (v1, 33)] [(v4, 33), (v5, 33), (v6, 33), (v7, 33)] v2 v3 33 33 66 rfl rfl hvs
      (by norm_num [List.map_cons, List.map_nil, List.sum_cons, List.sum_nil])
  obtain ⟨B3, R3, hU3, hB3, hR3⟩ :=
    streamT_decomp2 33 [(v0, 33), (v1, 33), (v2, 33), (v3, 33), (v4, 33), (v5, 33), (v6, 33), (v7, 33)] [(v0, 33), (v1, 33), (v2, 33)] [(v5, 33), (v6, 33), (v7, 33)] v3 v4 33 33 99 rfl rfl hvs
      (by norm_num [List.map_cons, List.map_nil, List.sum_cons, List.sum_nil])
  obtain ⟨B4, R4, hU4, hB4, hR4⟩ :=
    streamT_decomp2 33 [(v0, 33), (v1, 33), (v2, 33), (v3, 33), (v4, 33), (v5, 33), (v6, 33), (v7, 33)] [(v0, 33), (v1, 33), (v2, 33), (v3, 33)] [(v6, 33), (v7, 33)] v4 v5 33 33 132 rfl rfl hvs
      (by norm_num [List.map_cons, List.map_nil, List.sum_cons, List.sum_nil])
  obtain ⟨B5, R5, hU5, hB5, hR5⟩ :=
    streamT_decomp2 33 [(v0, 33), (v1, 33), (v2, 33), (v3, 33), (v4, 33), (v5, 33), (v6, 33), (v7, 33)] [(v0, 33), (v1, 33), (v2, 33), (v3, 33), (v4, 33)] [(v7, 33)] v5 v6 33 33 165 rfl rfl hvs
      (by norm_num [List.map_cons, List.map_nil, List.sum_cons, List.sum_nil])
  obtain ⟨B6, R6, hU6, hB6, hR6⟩ :=
    streamT_decomp2 33 [(v0, 33), (v1, 33), (v2, 33), (v3, 33), (v4, 33), (v5, 33), (v6, 33), (v7, 33)] [(v0, 33), (v1, 33), (v2, 33), (v3, 33), (v4, 33), (v5, 33)] [] v6 v7 33 33 198 rfl rfl hvs
      (by norm_num [List.map_cons, List.map_nil, List.sum_cons, List.sum_nil])
  rw [key, key2]
  simp only [List.cons.injEq]
  refine ⟨?_, ?_, ?_, ?_, ?_, ?_, ?_, ?_, ?_, ?_, ?_, ?_, ?_, ?_, ?_, ?_, ?_, ?_, ?_, ?_, ?_, ?_, ?_, ?_, ?_, ?_, ?_, ?_, ?_, ?_, ?_, ?_, ?_, trivial⟩
  · rw [hT0]
    exact byteSpec_mid 33 A0 v0 S0 (8 * 33 - 0 - 33) 33 0 25 hA0 hS0
      (by norm_num) (by norm_num)
  · rw [hT0]
    exact byteSpec_mid 33 A0 v0 S0 (8 * 33 - 0 - 33) 33 1 17 hA0 hS0
      (by norm_num) (by norm_num)
  · rw [hT0]
    exact byteSpec_mid 33 A0 v0 S0 (8 * 33 - 0 - 33) 33 2 9 hA0 hS0
      (by norm_num) (by norm_num)
  · rw [hT0]
    exact byteSpec_mid 33 A0 v0 S0 (8 * 33 - 0 - 33) 33 3 1 hA0 hS0
      (by norm_num) (by norm_num)
  · rw [hU0]
    exact byteSpec_bnd 33 B0 v0 v1 R0 (8 * 33 - 0 - 33 - 33) 4 1 7 26 1 127 33 hB0 hv0 hv1 hR0
      (by norm_num) (by norm_num) (by norm_num) (by norm_num) (by norm_num)
  · rw [hT1]
    exact byteSpec_mid 33 A1 v1 S1 (8 * 33 - 33 - 33) 33 5 18 hA1 hS1
      (by norm_num) (by norm_num)
  · rw [hT1]
    exact byteSpec_mid 33 A1 v1 S1 (8 * 33 - 33 - 33) 33 6 10 hA1 hS1
      (by norm_num) (by norm_num)
  · rw [hT1]
    exact byteSpec_mid 33 A1 v1 S1 (8 * 33 - 33 - 33) 33 7 2 hA1 hS1
      (by norm_num) (by norm_num)
  · rw [hU1]
    exact byteSpec_bnd 33 B1 v1 v2 R1 (8 * 33 - 33 - 33 - 33) 8 2 6 27 3 63 33 hB1 hv1 hv2 hR1
      (by norm_num) (by norm_num) (by norm_num) (by norm_num) (by norm_num)
  · rw [hT2]
    exact byteSpec_mid 33 A2 v2 S2 (8 * 33 - 66 - 33) 33 9 19 hA2 hS2
      (by norm_num) (by norm_num)
  · rw [hT2]
    exact byteSpec_mid 33 A2 v2 S2 (8 * 33 - 66 - 33) 33 10 11 hA2 hS2
      (by norm_num) (by norm_num)
  · rw [hT2]
    exact byteSpec_mid 33 A2 v2 S2 (8 * 33 - 66 - 33) 33 11 3 hA2 hS2
      (by norm_num) (by norm_num)
  · rw [hU2]
    exact byteSpec_bnd 33 B2 v2 v3 R2 (8 * 33 - 66 - 33 - 33) 12 3 5 28 7 31 33 hB2 hv2 hv3 hR2
      (by norm_num) (by norm_num) (by norm_num) (by norm_num) (by norm_num)
  · rw [hT3]
    exact byteSpec_mid 33 A3 v3 S3 (8 * 33 - 99 - 33) 33 13 20 hA3 hS3
      (by norm_num) (by norm_num)
  · rw [hT3]
    exact byteSpec_mid 33 A3 v3 S3 (8 * 33 - 99 - 33) 33 14 12 hA3 hS3
      (by norm_num) (by norm_num)
  · rw [hT3]
    exact byteSpec_mid 33 A3 v3 S3 (8 * 33 - 99 - 33) 33 15 4 hA3 hS3
      (by norm_num) (by norm_num)
  · rw [hU3]
    exact byteSpec_bnd 33 B3 v3 v4 R3 (8 * 33 - 99 - 33 - 33) 16 4 4 29 15 15 33 hB3 hv3 hv4 hR3
      (by norm_num) (by norm_num) (by norm_num) (by norm_num) (by norm_num)
  · rw [hT4]
    exact byteSpec_mid 33 A4 v4 S4 (8 * 33 - 132 - 33) 33 17 21 hA4 hS4
      (by norm_num) (by norm_num)
  · rw [hT4]
    exact byteSpec_mid 33 A4 v4 S4 (8 * 33 - 132 - 33) 33 18 13 hA4 hS4
      (by norm_num) (by norm_num)
  · rw [hT4]
    exact byteSpec_mid 33 A4 v4 S4 (8 * 33 - 132 - 33) 33 19 5 hA4 hS4
      (by norm_num) (by norm_num)
  · rw [hU4]
    exact byteSpec_bnd 33 B4 v4 v5 R4 (8 * 33 - 132 - 33 - 33) 20 5 3 30 31 7 33 hB4 hv4 hv5 hR4
      (by norm_num) (by norm_num) (by norm_num) (by norm_num) (by norm_num)
  · rw [hT5]
    exact byteSpec_mid 33 A5 v5 S5 (8 * 33 - 165 - 33) 33 21 22 hA5 hS5
      (by norm_num) (by norm_num)
  · rw [hT5]
    exact byteSpec_mid 33 A5 v5 S5 (8 * 33 - 165 - 33) 33 22 14 hA5 hS5
      (by norm_num) (by norm_num)
  · rw [hT5]
    exact byteSpec_mid 33 A5 v5 S5 (8 * 33 - 165 - 33) 33 23 6 hA5 hS5
      (by norm_num) (by norm_num)
  · rw [hU5]
    exact byteSpec_bnd 33 B5 v5 v6 R5 (8 * 33 - 165 - 33 - 33) 24 6 2 31 63 3 33 hB5 hv5 hv6 hR5
      (by norm_num) (by norm_num) (by norm_num) (by norm_num) (by norm_num)
  · rw [hT6]
    exact byteSpec_mid 33 A6 v6 S6 (8 * 33 - 198 - 33) 33 25 23 hA6 hS6
      (by norm_num) (by norm_num)
  · rw [hT6]
    exact byteSpec_mid 33 A6 v6 S6 (8 * 33 - 198 - 33) 33 26 15 hA6 hS6
      (by norm_num) (by norm_num)
  · rw [hT6]
    exact byteSpec_mid 33 A6 v6 S6 (8 * 33 - 198 - 33) 33 27 7 hA6 hS6
      (by norm_num) (by norm_num)
  · rw [hU6]
    exact byteSpec_bnd 33 B6 v6 v7 R6 (8 * 33 - 198 - 33 - 33) 28 7 1 32 127 1 33 hB6 hv6 hv7 hR6
      (by norm_num) (by norm_num) (by norm_num) (by norm_num) (by norm_num)
  · rw [hT7]
    exact byteSpec_mid 33 A7 v7 S7 (8 * 33 - 231 - 33) 33 29 24 hA7 hS7
      (by norm_num) (by norm_num)
  · rw [hT7]
    exact byteSpec_mid 33 A7 v7 S7 (8 * 33 - 231 - 33) 33 30 16 hA7 hS7
      (by norm_num) (by norm_num)
  · rw [hT7]
    exact byteSpec_mid 33 A7 v7 S7 (8 * 33 - 231 - 33) 33 31 8 hA7 hS7
      (by norm_num) (by norm_num)
  · rw [hT7]
    exact byteSpec_mid0 33 A7 v7 S7 (8 * 33 - 231 - 33) 33 32 hA7 hS7
      (by norm_num) (by norm_num)

set_option maxRecDepth 16000 in
set_option maxHeartbeats 1000000 in
theorem c5_pack_eq_34 (v0 v1 v2 v3 v4 v5 v6 v7 : Nat) (hv0 : v0 < 2 ^ 34) (hv1 : v1 < 2 ^ 34) (hv2 : v2 < 2 ^ 34) (hv3 : v3 < 2 ^ 34) (hv4 : v4 < 2 ^ 34) (hv5 : v5 < 2 ^ 34) (hv6 : v6 < 2 ^ 34) (hv7 : v7 < 2 ^ 34) :
    (packSeq (BitPacker.new (List.replicate 34 0)) [(v0, 34), (v1, 34), (v2, 34), (v3, 34), (v4, 34), (v5, 34), (v6, 34), (v7, 34)]).bytes
      = pack_bits_34 v0 v1 v2 v3 v4 v5 v6 v7 := by
  have hvs : ∀ p ∈ ([(v0, 34), (v1, 34), (v2, 34), (v3, 34), (v4, 34), (v5, 34), (v6, 34), (v7, 34)] : List (Nat × Nat)), p.1 < 2 ^ p.2 := by
    intro p hp
    simp only [List.mem_cons, List.not_mem_nil, or_false] at hp
    rcases hp with rfl | rfl | rfl | rfl | rfl | rfl | rfl | rfl
    exacts [hv0, hv1, hv2, hv3, hv4, hv5, hv6, hv7]
  obtain ⟨-, -, -, ⟨hlen, hbytes⟩, -, -⟩ :=
    packSeq_inv 34 [(v0, 34), (v1, 34), (v2, 34), (v3, 34), (v4, 34), (v5, 34), (v6, 34), (v7, 34)] 0 0 _ hvs
      (by norm_num [List.map_cons, List.map_nil, List.sum_cons, List.sum_nil]) (packInv_init 34)
  have key : (packSeq (BitPacker.new (List.replicate 34 0)) [(v0, 34), (v1, 34), (v2, 34), (v3, 34), (v4, 34), (v5, 34), (v6, 34), (v7, 34)]).bytes
      = [ ByteSpec 34 (streamT 34 [(v0, 34), (v1, 34), (v2, 34), (v3, 34), (v4, 34), (v5, 34), (v6, 34), (v7, 34)] 0 0) 0,
          ByteSpec 34 (streamT 34 [(v0, 34), (v1, 34), (v2, 34), (v3, 34), (v4, 34), (v5, 34), (v6, 34), (v7, 34)] 0 0) 1,
          ByteSpec 34 (streamT 34 [(v0, 34), (v1, 34), (v2, 34), (v3, 34), (v4, 34), (v5, 34), (v6, 34), (v7, 34)] 0 0) 2,
          ByteSpec 34 (streamT 34 [(v0, 34), (v1, 34), (v2, 34), (v3, 34), (v4, 34), (v5, 34), (v6, 34), (v7, 34)] 0 0) 3,
          ByteSpec 34 (streamT 34 [(v0, 34), (v1, 34), (v2, 34), (v3, 34), (v4, 34), (v5, 34), (v6, 34), (v7, 34)] 0 0) 4,
          ByteSpec 34 (streamT 34 [(v0, 34), (v1, 34), (v2, 34), (v3, 34), (v4, 34), (v5, 34), (v6, 34), (v7, 34)] 0 0) 5,
          ByteSpec 34 (streamT 34 [(v0, 34), (v1, 34), (v2, 34), (v3, 34), (v4, 34), (v5, 34), (v6, 34), (v7, 34)] 0 0) 6,
          ByteSpec 34 (streamT 34 [(v0, 34), (v1, 34), (v2, 34), (v3, 34), (v4, 34), (v5, 34), (v6, 34), (v7, 34)] 0 0) 7,
          ByteSpec 34 (streamT 34 [(v0, 34), (v1, 34), (v2, 34), (v3, 34), (v4, 34), (v5, 34), (v6, 34), (v7, 34)] 0 0) 8,
          ByteSpec 34 (streamT 34 [(v0, 34), (v1, 34), (v2, 34), (v3, 34), (v4, 34), (v5, 34), (v6, 34), (v7, 34)] 0 0) 9,
          ByteSpec 34 (streamT 34 [(v0, 34), (v1, 34), (v2, 34), (v3, 34), (v4, 34), (v5, 34), (v6, 34), (v7, 34)] 0 0) 10,
          ByteSpec 34 (streamT 34 [(v0, 34), (v1, 34), (v2, 34), (v3, 34), (v4, 34), (v5, 34), (v6, 34), (v7, 34)] 0 0) 11,
          ByteSpec 34 (streamT 34 [(v0, 34), (v1, 34), (v2, 34), (v3, 34), (v4, 34), (v5, 34), (v6, 34), (v7, 34)] 0 0) 12,
          ByteSpec 34 (streamT 34 [(v0, 34), (v1, 34), (v2, 34), (v3, 34), (v4, 34), (v5, 34), (v6, 34), (v7, 34)] 0 0) 13,
          ByteSpec 34 (streamT 34 [(v0, 34), (v1, 34), (v2, 34), (v3, 34), (v4, 34), (v5, 34), (v6, 34), (v7, 34)] 0 0) 14,
          ByteSpec 34 (streamT 34 [(v0, 34), (v1, 34), (v2, 34), (v3, 34), (v4, 34), (v5, 34), (v6, 34), (v7, 34)] 0 0) 15,
          ByteSpec 34 (streamT 34 [(v0, 34), (v1, 34), (v2, 34), (v3, 34), (v4, 34), (v5, 34), (v6, 34), (v7, 34)] 0 0) 16,
          ByteSpec 34 (streamT 34 [(v0, 34), (v1, 34), (v2, 34), (v3, 34), (v4, 34), (v5, 34), (v6, 34), (v7, 34)] 0 0) 17,
          ByteSpec 34 (streamT 34 [(v0, 34), (v1, 34), (v2, 34), (v3, 34), (v4, 34), (v5, 34), (v6, 34), (v7, 34)] 0 0) 18,
          ByteSpec 34 (streamT 34 [(v0, 34), (v1, 34), (v2, 34), (v3, 34), (v4, 34), (v5, 34), (v6, 34), (v7, 34)] 0 0) 19,
          ByteSpec 34 (streamT 34 [(v0, 34), (v1, 34), (v2, 34), (v3, 34), (v4, 34), (v5, 34), (v6, 34), (v7, 34)] 0 0) 20,
          ByteSpec 34 (streamT 34 [(v0, 34), (v1, 34), (v2, 34), (v3, 34), (v4, 34), (v5, 34), (v6, 34), (v7, 34)] 0 0) 21,
          ByteSpec 34 (streamT 34 [(v0, 34), (v1, 34), (v2, 34), (v3, 34), (v4, 34), (v5, 34), (v6, 34), (v7, 34)] 0 0) 22,
          ByteSpec 34 (streamT 34 [(v0, 34), (v1, 34), (v2, 34), (v3, 34), (v4, 34), (v5, 34), (v6, 34), (v7, 34)] 0 0) 23,
          ByteSpec 34 (streamT 34 [(v0, 34), (v1, 34), (v2, 34), (v3, 34), (v4, 34), (v5, 34), (v6, 34), (v7, 34)] 0 0) 24,
          ByteSpec 34 (streamT 34 [(v0, 34), (v1, 34), (v2, 34), (v3, 34), (v4, 34), (v5, 34), (v6, 34), (v7, 34)] 0 0) 25,
          ByteSpec 34 (streamT 34 [(v0, 34), (v1, 34), (v2, 34), (v3, 34), (v4, 34), (v5, 34), (v6, 34), (v7, 34)] 0 0) 26,
          ByteSpec 34 (streamT 34 [(v0, 34), (v1, 34), (v2, 34), (v3, 34), (v4, 34), (v5, 34), (v6, 34), (v7, 34)] 0 0) 27,
          ByteSpec 34 (streamT 34 [(v0, 34), (v1, 34), (v2, 34), (v3, 34), (v4, 34), (v5, 34), (v6, 34), (v7, 34)] 0 0) 28,
          ByteSpec 34 (streamT 34 [(v0, 34), (v1, 34), (v2, 34), (v3, 34), (v4, 34), (v5, 34), (v6, 34), (v7, 34)] 0 0) 29,
          ByteSpec 34 (streamT 34 [(v0, 34), (v1, 34), (v2, 34), (v3, 34), (v4, 34), (v5, 34), (v6, 34), (v7, 34)] 0 0) 30,
          ByteSpec 34 (streamT 34 [(v0, 34), (v1, 34), (v2, 34), (v3, 34), (v4, 34), (v5, 34), (v6, 34), (v7, 34)] 0 0) 31,
          ByteSpec 34 (streamT 34 [(v0, 34), (v1, 34), (v2, 34), (v3, 34), (v4, 34), (v5, 34), (v6, 34), (v7, 34)] 0 0) 32,
          ByteSpec 34 (streamT 34 [(v0, 34), (v1, 34), (v2, 34), (v3, 34), (v4, 34), (v5, 34), (v6, 34), (v7, 34)] 0 0) 33 ] :=
    (list_eq_map_range_of_getD _ _ 34 hlen hbytes).trans (by rfl)
  have key2 : pack_bits_34 v0 v1 v2 v3 v4 v5 v6 v7
      = [ u8 (((v0 >>> 26) &&& 0xff)),
          u8 (((v0 >>> 18) &&& 0xff)),
          u8 (((v0 >>> 10) &&& 0xff)),
          u8 (((v0 >>> 2) &&& 0xff)),
          u8 (((((v0) &&& 0x3) <<< 6) ||| ((v1 >>> 28) &&& 0x3f))),
          u8 (((v1 >>> 20) &&& 0xff)),
          u8 (((v1 >>> 12) &&& 0xff)),
          u8 (((v1 >>> 4) &&& 0xff)),
          u8 (((((v1) &&& 0xf) <<< 4) ||| ((v2 >>> 30) &&& 0xf))),
          u8 (((v2 >>> 22) &&& 0xff)),
          u8 (((v2 >>> 14) &&& 0xff)),
          u8 (((v2 >>> 6) &&& 0xff)),
          u8 (((((v2) &&& 0x3f) <<< 2) ||| ((v3 >>> 32) &&& 0x3))),
          u8 (((v3 >>> 24) &&& 0xff)),
          u8 (((v3 >>> 16) &&& 0xff)),
          u8 (((v3 >>> 8) &&& 0xff)),
          u8 (((v3) &&& 0xff)),
          u8 (((v4 >>> 26) &&& 0xff)),
          u8 (((v4 >>> 18) &&& 0xff)),
          u8 (((v4 >>> 10) &&& 0xff)),
          u8 (((v4 >>> 2) &&& 0xff)),
          u8 (((((v4) &&& 0x3) <<< 6) ||| ((v5 >>> 28) &&& 0x3f))),
          u8 (((v5 >>> 20) &&& 0xff)),
          u8 (((v5 >>> 12) &&& 0xff)),
          u8 (((v5 >>> 4) &&& 0xff)),
          u8 (((((v5) &&& 0xf) <<< 4) ||| ((v6 >>> 30) &&& 0xf))),
          u8 (((v6 >>> 22) &&& 0xff)),
          u8 (((v6 >>> 14) &&& 0xff)),
          u8 (((v6 >>> 6) &&& 0xff)),
          u8 (((((v6) &&& 0x3f) <<< 2) ||| ((v7 >>> 32) &&& 0x3))),
          u8 (((v7 >>> 24) &&& 0xff)),
          u8 (((v7 >>> 16) &&& 0xff)),
          u8 (((v7 >>> 8) &&& 0xff)),
          u8 (((v7) &&& 0xff)) ] := rfl
  obtain ⟨A0, S0, hT0, hA0, hS0⟩ :=
    streamT_decomp 34 [(v0, 34), (v1, 34), (v2, 34), (v3, 34), (v4, 34), (v5, 34), (v6, 34), (v7, 34)] [] [(v1, 34), (v2, 34), (v3, 34), (v4, 34), (v5, 34), (v6, 34), (v7, 34)] v0 34 0 rfl rfl hvs
      (by norm_num [List.map_cons, List.map_nil, List.sum_cons, List.sum_nil])
  obtain ⟨A1, S1, hT1, hA1, hS1⟩ :=
    streamT_decomp 34 [(v0, 34), (v1, 34), (v2, 34), (v3, 34), (v4, 34), (v5, 34), (v6, 34), (v7, 34)] [(v0, 34)] [(v2, 34), (v3, 34), (v4, 34), (v5, 34), (v6, 34), (v7, 34)] v1 34 34 rfl rfl hvs
      (by norm_num [List.map_cons, List.map_nil, List.sum_cons, List.sum_nil])
  obtain ⟨A2, S2, hT2, hA2, hS2⟩ :=
    streamT_decomp 34 [(v0, 34), (v1, 34), (v2, 34), (v3, 34), (v4, 34), (v5, 34), (v6, 34), (v7, 34)] [(v0, 34), (v1, 34)] [(v3, 34), (v4, 34), (v5, 34), (v6, 34), (v7, 34)] v2 34 68 rfl rfl hvs
      (by norm_num [List.map_cons, List.map_nil, List.sum_cons, List.sum_nil])
  obtain ⟨A3, S3, hT3, hA3, hS3⟩ :=
    streamT_decomp 34 [(v0, 34), (v1, 34), (v2, 34), (v3, 34), (v4, 34), (v5, 34), (v6, 34), (v7, 34)] [(v0, 34), (v1, 34), (v2, 34)] [(v4, 34), (v5, 34), (v6, 34), (v7, 34)] v3 34 102 rfl rfl hvs
      (by norm_num [List.map_cons, List.map_nil, List.sum_cons, List.sum_nil])
  obtain ⟨A4, S4, hT4, hA4, hS4⟩ :=
    streamT_decomp 34 [(v0, 34), (v1, 34), (v2, 34), (v3, 34), (v4, 34), (v5, 34), (v6, 34), (v7, 34)] [(v0, 34), (v1, 34), (v2, 34), (v3, 34)] [(v5, 34), (v6, 34), (v7, 34)] v4 34 136 rfl rfl hvs
      (by norm_num [List.map_cons, List.map_nil, List.sum_cons, List.sum_nil])
  obtain ⟨A5, S5, hT5, hA5, hS5⟩ :=
    streamT_decomp 34 [(v0, 34), (v1, 34), (v2, 34), (v3, 34), (v4, 34), (v5, 34), (v6, 34), (v7, 34)] [(v0, 34), (v1, 34), (v2, 34), (v3, 34), (v4, 34)] [(v6, 34), (v7, 34)] v5 34 170 rfl rfl hvs
      (by norm_num [List.map_cons, List.map_nil, List.sum_cons, List.sum_nil])
  obtain ⟨A6, S6, hT6, hA6, hS6⟩ :=
    streamT_decomp 34 [(v0, 34), (v1, 34), (v2, 34), (v3, 34), (v4, 34), (v5, 34), (v6, 34), (v7, 34)] [(v0, 34), (v1, 34), (v2, 34), (v3, 34), (v4, 34), (v5, 34)] [(v7, 34)] v6 34 204 rfl rfl hvs
      (by norm_num [List.map_cons, List.map_nil, List.sum_cons, List.sum_nil])
  obtain ⟨A7, S7, hT7, hA7, hS7⟩ :=
    streamT_decomp 34 [(v0, 34), (v1, 34), (v2, 34), (v3, 34), (v4, 34), (v5, 34), (v6, 34), (v7, 34)] [(v0, 34), (v1, 34), (v2, 34), (v3, 34), (v4, 34), (v5, 34), (v6, 34)] [] v7 34 238 rfl rfl hvs
      (by norm_num [List.map_cons, List.map_nil, List.sum_cons, List.sum_nil])
  obtain ⟨B0, R0, hU0, hB0, hR0⟩ :=
    streamT_decomp2 34 [(v0, 34), (v1, 34), (v2, 34), (v3, 34), (v4, 34), (v5, 34), (v6, 34), (v7, 34)] [] [(v2, 34), (v3, 34), (v4, 34), (v5, 34), (v6, 34), (v7, 34)] v0 v1 34 34 0 rfl rfl hvs
      (by norm_num [List.map_cons, List.map_nil, List.sum_cons, List.sum_nil])
  obtain ⟨B1, R1, hU1, hB1, hR1⟩ :=
    streamT_decomp2 34 [(v0, 34), (v1, 34), (v2, 34), (v3, 34), (v4, 34), (v5, 34), (v6, 34), (v7, 34)] [(v0, 34)] [(v3, 34), (v4, 34), (v5, 34), (v6, 34), (v7, 34)] v1 v2 34 34 34 rfl rfl hvs
      (by norm_num [List.map_cons, List.map_nil, List.sum_cons, List.sum_nil])
  obtain ⟨B2, R2, hU2, hB2, hR2⟩ :=
    streamT_decomp2 34 [(v0, 34), (v1, 34), (v2, 34), (v3, 34), (v4, 34), (v5, 34), (v6, 34), (v7, 34)] [(v0, 34), (v1, 34)] [(v4, 34), (v5, 34), (v6, 34), (v7, 34)] v2 v3 34 34 68 rfl rfl hvs
      (by norm_num [List.map_cons, List.map_nil, List.sum_cons, List.sum_nil])
  obtain ⟨B4, R4, hU4, hB4, hR4⟩ :=
    streamT_decomp2 34 [(v0, 34), (v1, 34), (v2, 34), (v3, 34), (v4, 34), (v5, 34), (v6, 34), (v7, 34)] [(v0, 34), (v1, 34), (v2, 34), (v3, 34)] [(v6, 34), (v7, 34)] v4 v5 34 34 136 rfl rfl hvs
      (by norm_num [List.map_cons, List.map_nil, List.sum_cons, List.sum_nil])
  obtain ⟨B5, R5, hU5, hB5, hR5⟩ :=
    streamT_decomp2 34 [(v0, 34), (v1, 34), (v2, 34), (v3, 34), (v4, 34), (v5, 34), (v6, 34), (v7, 34)] [(v0, 34), (v1, 34), (v2, 34), (v3, 34), (v4, 34)] [(v7, 34)] v5 v6 34 34 170 rfl rfl hvs
      (by norm_num [List.map_cons, List.map_nil, List.sum_cons, List.sum_nil])
  obtain ⟨B6, R6, hU6, hB6, hR6⟩ :=
    streamT_decomp2 34 [(v0, 34), (v1, 34), (v2, 34), (v3, 34), (v4, 34), (v5, 34), (v6, 34), (v7, 34)] [(v0, 34), (v1, 34), (v2, 34), (v3, 34), (v4, 34), (v5, 34)] [] v6 v7 34 34 204 rfl rfl hvs
      (by norm_num [List.map_cons, List.map_nil, List.sum_cons, List.sum_nil])
  rw [key, key2]
  simp only [List.cons.injEq]
  refine ⟨?_, ?_, ?_, ?_, ?_, ?_, ?_, ?_, ?_, ?_, ?_, ?_, ?_, ?_, ?_, ?_, ?_, ?_, ?_, ?_, ?_, ?_, ?_, ?_, ?_, ?_, ?_, ?_, ?_, ?_, ?_, ?_, ?_, ?_, trivial⟩
  · rw [hT0]
    exact byteSpec_mid 34 A0 v0 S0 (8 * 34 - 0 - 34) 34 0 26 hA0 hS0
      (by norm_num) (by norm_num)
  · rw [hT0]
    exact byteSpec_mid 34 A0 v0 S0 (8 * 34 - 0 - 34) 34 1 18 hA0 hS0
      (by norm_num) (by norm_num)
  · rw [hT0]
    exact byteSpec_mid 34 A0 v0 S0 (8 * 34 - 0 - 34) 34 2 10 hA0 hS0
      (by norm_num) (by norm_num)
  · rw [hT0]
    exact byteSpec_mid 34 A0 v0 S0 (8 * 34 - 0 - 34) 34 3 2 hA0 hS0
      (by norm_num) (by norm_num)
  · rw [hU0]
    exact byteSpec_bnd 34 B0 v0 v1 R0 (8 * 34 - 0 - 34 - 34) 4 2 6 28 3 63 34 hB0 hv0 hv1 hR0
      (by norm_num) (by norm_num) (by norm_num) (by norm_num) (by norm_num)
  · rw [hT1]
    exact byteSpec_mid 34 A1 v1 S1 (8 * 34 - 34 - 34) 34 5 20 hA1 hS1
      (by norm_num) (by norm_num)
  · rw [hT1]
    exact byteSpec_mid 34 A1 v1 S1 (8 * 34 - 34 - 34) 34 6 12 hA1 hS1
      (by norm_num) (by norm_num)
  · rw [hT1]
    exact byteSpec_mid 34 A1 v1 S1 (8 * 34 - 34 - 34) 34 7 4 hA1 hS1
      (by norm_num) (by norm_num)
  · rw [hU1]
    exact byteSpec_bnd 34 B1 v1 v2 R1 (8 * 34 - 34 - 34 - 34) 8 4 4 30 15 15 34 hB1 hv1 hv2 hR1
      (by norm_num) (by norm_num) (by norm_num) (by norm_num) (by norm_num)
  · rw [hT2]
    exact byteSpec_mid 34 A2 v2 S2 (8 * 34 - 68 - 34) 34 9 22 hA2 hS2
      (by norm_num) (by norm_num)
  · rw [hT2]
    exact byteSpec_mid 34 A2 v2 S2 (8 * 34 - 68 - 34) 34 10 14 hA2 hS2
      (by norm_num) (by norm_num)
  · rw [hT2]
    exact byteSpec_mid 34 A2 v2 S2 (8 * 34 - 68 - 34) 34 11 6 hA2 hS2
      (by norm_num) (by norm_num)
  · rw [hU2]
    exact byteSpec_bnd 34 B2 v2 v3 R2 (8 * 34 - 68 - 34 - 34) 12 6 2 32 63 3 34 hB2 hv2 hv3 hR2
      (by norm_num) (by norm_num) (by norm_num) (by norm_num) (by norm_num)
  · rw [hT3]
    exact byteSpec_mid 34 A3 v3 S3 (8 * 34 - 102 - 34) 34 13 24 hA3 hS3
      (by norm_num) (by norm_num)
  · rw [hT3]
    exact byteSpec_mid 34 A3 v3 S3 (8 * 34 - 102 - 34) 34 14 16 hA3 hS3
      (by norm_num) (by norm_num)
  · rw [hT3]
    exact byteSpec_mid 34 A3 v3 S3 (8 * 34 - 102 - 34) 34 15 8 hA3 hS3
      (by norm_num) (by norm_num)
  · rw [hT3]
    exact byteSpec_mid0 34 A3 v3 S3 (8 * 34 - 102 - 34) 34 16 hA3 hS3
      (by norm_num) (by norm_num)
  · rw [hT4]
    exact byteSpec_mid 34 A4 v4 S4 (8 * 34 - 136 - 34) 34 17 26 hA4 hS4
      (by norm_num) (by norm_num)
  · rw [hT4]
    exact byteSpec_mid 34 A4 v4 S4 (8 * 34 - 136 - 34) 34 18 18 hA4 hS4
      (by norm_num) (by norm_num)
  · rw [hT4]
    exact byteSpec_mid 34 A4 v4 S4 (8 * 34 - 136 - 34) 34 19 10 hA4 hS4
      (by norm_num) (by norm_num)
  · rw [hT4]
    exact byteSpec_mid 34 A4 v4 S4 (8 * 34 - 136 - 34) 34 20 2 hA4 hS4
      (by norm_num) (by norm_num)
  · rw [hU4]
    exact byteSpec_bnd 34 B4 v4 v5 R4 (8 * 34 - 136 - 34 - 34) 21 2 6 28 3 63 34 hB4 hv4 hv5 hR4
      (by norm_num) (by norm_num) (by norm_num) (by norm_num) (by norm_num)
  · rw [hT5]
    exact byteSpec_mid 34 A5 v5 S5 (8 * 34 - 170 - 34) 34 22 20 hA5 hS5
      (by norm_num) (by norm_num)
  · rw [hT5]
    exact byteSpec_mid 34 A5 v5 S5 (8 * 34 - 170 - 34) 34 23 12 hA5 hS5
      (by norm_num) (by norm_num)
  · rw [hT5]
    exact byteSpec_mid 34 A5 v5 S5 (8 * 34 - 170 - 34) 34 24 4 hA5 hS5
      (by norm_num) (by norm_num)
  · rw [hU5]
    exact byteSpec_bnd 34 B5 v5 v6 R5 (8 * 34 - 170 - 34 - 34) 25 4 4 30 15 15 34 hB5 hv5 hv6 hR5
      (by norm_num) (by norm_num) (by norm_num) (by norm_num) (by norm_num)
  · rw [hT6]
    exact byteSpec_mid 34 A6 v6 S6 (8 * 34 - 204 - 34) 34 26 22 hA6 hS6
      (by norm_num) (by norm_num)
  · rw [hT6]
    exact byteSpec_mid 34 A6 v6 S6 (8 * 34 - 204 - 34) 34 27 14 hA6 hS6
      (by norm_num) (by norm_num)
  · rw [hT6]
    exact byteSpec_mid 34 A6 v6 S6 (8 * 34 - 204 - 34) 34 28 6 hA6 hS6
      (by norm_num) (by norm_num)
  · rw [hU6]
    exact byteSpec_bnd 34 B6 v6 v7 R6 (8 * 34 - 204 - 34 - 34) 29 6 2 32 63 3 34 hB6 hv6 hv7 hR6
      (by norm_num) (by norm_num) (by norm_num) (by norm_num) (by norm_num)
  · rw [hT7]
    exact byteSpec_mid 34 A7 v7 S7 (8 * 34 - 238 - 34) 34 30 24 hA7 hS7
      (by norm_num) (by norm_num)
  · rw [hT7]
    exact byteSpec_mid 34 A7 v7 S7 (8 * 34 - 238 - 34) 34 31 16 hA7 hS7
      (by norm_num) (by norm_num)
  · rw [hT7]
    exact byteSpec_mid 34 A7 v7 S7 (8 * 34 - 238 - 34) 34 32 8 hA7 hS7
      (by norm_num) (by norm_num)
  · rw [hT7]
    exact byteSpec_mid0 34 A7 v7 S7 (8 * 34 - 238 - 34) 34 33 hA7 hS7
      (by norm_num) (by norm_num)

set_option maxRecDepth 16000 in
set_option maxHeartbeats 1000000 in
theorem c5_pack_eq_35 (v0 v1 v2 v3 v4 v5 v6 v7 : Nat) (hv0 : v0 < 2 ^ 35) (hv1 : v1 < 2 ^ 35) (hv2 : v2 < 2 ^ 35) (hv3 : v3 < 2 ^ 35) (hv4 : v4 < 2 ^ 35) (hv5 : v5 < 2 ^ 35) (hv6 : v6 < 2 ^ 35) (hv7 : v7 < 2 ^ 35) :
    (packSeq (BitPacker.new (List.replicate 35 0)) [(v0, 35), (v1, 35), (v2, 35), (v3, 35), (v4, 35), (v5, 35), (v6, 35), (v7, 35)]).bytes
      = pack_bits_35 v0 v1 v2 v3 v4 v5 v6 v7 := by
  have hvs : ∀ p ∈ ([(v0, 35), (v1, 35), (v2, 35), (v3, 35), (v4, 35), (v5, 35), (v6, 35), (v7, 35)] : List (Nat × Nat)), p.1 < 2 ^ p.2 := by
    intro p hp
    simp only [List.mem_cons, List.not_mem_nil, or_false] at hp
    rcases hp with rfl | rfl | rfl | rfl | rfl | rfl | rfl | rfl
    exacts [hv0, hv1, hv2, hv3, hv4, hv5, hv6, hv7]
  obtain ⟨-, -, -, ⟨hlen, hbytes⟩, -, -⟩ :=
    packSeq_inv 35 [(v0, 35), (v1, 35), (v2, 35), (v3, 35), (v4, 35), (v5, 35), (v6, 35), (v7, 35)] 0 0 _ hvs
      (by norm_num [List.map_cons, List.map_nil, List.sum_cons, List.sum_nil]) (packInv_init 35)
  have key : (packSeq (BitPacker.new (List.replicate 35 0)) [(v0, 35), (v1, 35), (v2, 35), (v3, 35), (v4, 35), (v5, 35), (v6, 35), (v7, 35)]).bytes
      = [ ByteSpec 35 (streamT 35 [(v0, 35), (v1, 35), (v2, 35), (v3, 35), (v4, 35), (v5, 35), (v6, 35), (v7, 35)] 0 0) 0,
          ByteSpec 35 (streamT 35 [(v0, 35), (v1, 35), (v2, 35), (v3, 35), (v4, 35), (v5, 35), (v6, 35), (v7, 35)] 0 0) 1,
          ByteSpec 35 (streamT 35 [(v0, 35), (v1, 35), (v2, 35), (v3, 35), (v4, 35), (v5, 35), (v6, 35), (v7, 35)] 0 0) 2,
          ByteSpec 35 (streamT 35 [(v0, 35), (v1, 35), (v2, 35), (v3, 35), (v4, 35), (v5, 35), (v6, 35), (v7, 35)] 0 0) 3,
          ByteSpec 35 (streamT 35 [(v0, 35), (v1, 35), (v2, 35), (v3, 35), (v4, 35), (v5, 35), (v6, 35), (v7, 35)] 0 0) 4,
          ByteSpec 35 (streamT 35 [(v0, 35), (v1, 35), (v2, 35), (v3, 35), (v4, 35), (v5, 35), (v6, 35), (v7, 35)] 0 0) 5,
          ByteSpec 35 (streamT 35 [(v0, 35), (v1, 35), (v2, 35), (v3, 35), (v4, 35), (v5, 35), (v6, 35), (v7, 35)] 0 0) 6,
          ByteSpec 35 (streamT 35 [(v0, 35), (v1, 35), (v2, 35), (v3, 35), (v4, 35), (v5, 35), (v6, 35), (v7, 35)] 0 0) 7,
          ByteSpec 35 (streamT 35 [(v0, 35), (v1, 35), (v2, 35), (v3, 35), (v4, 35), (v5, 35), (v6, 35), (v7, 35)] 0 0) 8,
          ByteSpec 35 (streamT 35 [(v0, 35), (v1, 35), (v2, 35), (v3, 35), (v4, 35), (v5, 35), (v6, 35), (v7, 35)] 0 0) 9,
          ByteSpec 35 (streamT 35 [(v0, 35), (v1, 35), (v2, 35), (v3, 35), (v4, 35), (v5, 35), (v6, 35), (v7, 35)] 0 0) 10,
          ByteSpec 35 (streamT 35 [(v0, 35), (v1, 35), (v2, 35), (v3, 35), (v4, 35), (v5, 35), (v6, 35), (v7, 35)] 0 0) 11,
          ByteSpec 35 (streamT 35 [(v0, 35), (v1, 35), (v2, 35), (v3, 35), (v4, 35), (v5, 35), (v6, 35), (v7, 35)] 0 0) 12,
          ByteSpec 35 (streamT 35 [(v0, 35), (v1, 35), (v2, 35), (v3, 35), (v4, 35), (v5, 35), (v6, 35), (v7, 35)] 0 0) 13,
          ByteSpec 35 (streamT 35 [(v0, 35), (v1, 35), (v2, 35), (v3, 35), (v4, 35), (v5, 35), (v6, 35), (v7, 35)] 0 0) 14,
          ByteSpec 35 (streamT 35 [(v0, 35), (v1, 35), (v2, 35), (v3, 35), (v4, 35), (v5, 35), (v6, 35), (v7, 35)] 0 0) 15,
          ByteSpec 35 (streamT 35 [(v0, 35), (v1, 35), (v2, 35), (v3, 35), (v4, 35), (v5, 35), (v6, 35), (v7, 35)] 0 0) 16,
          ByteSpec 35 (streamT 35 [(v0, 35), (v1, 35), (v2, 35), (v3, 35), (v4, 35), (v5, 35), (v6, 35), (v7, 35)] 0 0) 17,
          ByteSpec 35 (streamT 35 [(v0, 35), (v1, 35), (v2, 35), (v3, 35), (v4, 35), (v5, 35), (v6, 35), (v7, 35)] 0 0) 18,
          ByteSpec 35 (streamT 35 [(v0, 35), (v1, 35), (v2, 35), (v3, 35), (v4, 35), (v5, 35), (v6, 35), (v7, 35)] 0 0) 19,
          ByteSpec 35 (streamT 35 [(v0, 35), (v1, 35), (v2, 35), (v3, 35), (v4, 35), (v5, 35), (v6, 35), (v7, 35)] 0 0) 20,
          ByteSpec 35 (streamT 35 [(v0, 35), (v1, 35), (v2, 35), (v3, 35), (v4, 35), (v5, 35), (v6, 35), (v7, 35)] 0 0) 21,
          ByteSpec 35 (streamT 35 [(v0, 35), (v1, 35), (v2, 35), (v3, 35), (v4, 35), (v5, 35), (v6, 35), (v7, 35)] 0 0) 22,
          ByteSpec 35 (streamT 35 [(v0, 35), (v1, 35), (v2, 35), (v3, 35), (v4, 35), (v5, 35), (v6, 35), (v7, 35)] 0 0) 23,
          ByteSpec 35 (streamT 35 [(v0, 35), (v1, 35), (v2, 35), (v3, 35), (v4, 35), (v5, 35), (v6, 35), (v7, 35)] 0 0) 24,
          ByteSpec 35 (streamT 35 [(v0, 35), (v1, 35), (v2, 35), (v3, 35), (v4, 35), (v5, 35), (v6, 35), (v7, 35)] 0 0) 25,
          ByteSpec 35 (streamT 35 [(v0, 35), (v1, 35), (v2, 35), (v3, 35), (v4, 35), (v5, 35), (v6, 35), (v7, 35)] 0 0) 26,
          ByteSpec 35 (streamT 35 [(v0, 35), (v1, 35), (v2, 35), (v3, 35), (v4, 35), (v5, 35), (v6, 35), (v7, 35)] 0 0) 27,
          ByteSpec 35 (streamT 35 [(v0, 35), (v1, 35), (v2, 35), (v3, 35), (v4, 35), (v5, 35), (v6, 35), (v7, 35)] 0 0) 28,
          ByteSpec 35 (streamT 35 [(v0, 35), (v1, 35), (v2, 35), (v3, 35), (v4, 35), (v5, 35), (v6, 35), (v7, 35)] 0 0) 29,
          ByteSpec 35 (streamT 35 [(v0, 35), (v1, 35), (v2, 35), (v3, 35), (v4, 35), (v5, 35), (v6, 35), (v7, 35)] 0 0) 30,
          ByteSpec 35 (streamT 35 [(v0, 35), (v1, 35), (v2, 35), (v3, 35), (v4, 35), (v5, 35), (v6, 35), (v7, 35)] 0 0) 31,
          ByteSpec 35 (streamT 35 [(v0, 35), (v1, 35), (v2, 35), (v3, 35), (v4, 35), (v5, 35), (v6, 35), (v7, 35)] 0 0) 32,
          ByteSpec 35 (streamT 35 [(v0, 35), (v1, 35), (v2, 35), (v3, 35), (v4, 35), (v5, 35), (v6, 35), (v7, 35)] 0 0) 33,
          ByteSpec 35 (streamT 35 [(v0, 35), (v1, 35), (v2, 35), (v3, 35), (v4, 35), (v5, 35), (v6, 35), (v7, 35)] 0 0) 34 ] :=
    (list_eq_map_range_of_getD _ _ 35 hlen hbytes).trans (by rfl)
  have key2 : pack_bits_35 v0 v1 v2 v3 v4 v5 v6 v7
      = [ u8 (((v0 >>> 27) &&& 0xff)),
          u8 (((v0 >>> 19) &&& 0xff)),
          u8 (((v0 >>> 11) &&& 0xff)),
          u8 (((v0 >>> 3) &&& 0xff)),
          u8 (((((v0) &&& 0x7) <<< 5) ||| ((v1 >>> 30) &&& 0x1f))),
          u8 (((v1 >>> 22) &&& 0xff)),
          u8 (((v1 >>> 14) &&& 0xff)),
          u8 (((v1 >>> 6) &&& 0xff)),
          u8 (((((v1) &&& 0x3f) <<< 2) ||| ((v2 >>> 33) &&& 0x3))),
          u8 (((v2 >>> 25) &&& 0xff)),
          u8 (((v2 >>> 17) &&& 0xff)),
          u8 (((v2 >>> 9) &&& 0xff)),
          u8 (((v2 >>> 1) &&& 0xff)),
          u8 (((((v2) &&& 0x1) <<< 7) ||| ((v3 >>> 28) &&& 0x7f))),
          u8 (((v3 >>> 20) &&& 0xff)),
          u8 (((v3 >>> 12) &&& 0xff)),
          u8 (((v3 >>> 4) &&& 0xff)),
          u8 (((((v3) &&& 0xf) <<< 4) ||| ((v4 >>> 31) &&& 0xf))),
          u8 (((v4 >>> 23) &&& 0xff)),
          u8 (((v4 >>> 15) &&& 0xff)),
          u8 (((v4 >>> 7) &&& 0xff)),
          u8 (((((v4) &&& 0x7f) <<< 1) ||| ((v5 >>> 34) &&& 0x1))),
          u8 (((v5 >>> 26) &&& 0xff)),
          u8 (((v5 >>> 18) &&& 0xff)),
          u8 (((v5 >>> 10) &&& 0xff)),
          u8 (((v5 >>> 2) &&& 0xff)),
          u8 (((((v5) &&& 0x3) <<< 6) ||| ((v6 >>> 29) &&& 0x3f))),
          u8 (((v6 >>> 21) &&& 0xff)),
          u8 (((v6 >>> 13) &&& 0xff)),
          u8 (((v6 >>> 5) &&& 0xff)),
          u8 (((((v6) &&& 0x1f) <<< 3) ||| ((v7 >>> 32) &&& 0x7))),
          u8 (((v7 >>> 24) &&& 0xff)),
          u8 (((v7 >>> 16) &&& 0xff)),
          u8 (((v7 >>> 8) &&& 0xff)),
          u8 (((v7) &&& 0xff)) ] := rfl
  obtain ⟨A0, S0, hT0, hA0, hS0⟩ :=
    streamT_decomp 35 [(v0, 35), (v1, 35), (v2, 35), (v3, 35), (v4, 35), (v5, 35), (v6, 35), (v7, 35)] [] [(v1, 35), (v2, 35), (v3, 35), (v4, 35), (v5, 35), (v6, 35), (v7, 35)] v0 35 0 rfl rfl hvs
      (by norm_num [List.map_cons, List.map_nil, List.sum_cons, List.sum_nil])
  obtain ⟨A1, S1, hT1, hA1, hS1⟩ :=
    streamT_decomp 35 [(v0, 35), (v1, 35), (v2, 35), (v3, 35), (v4, 35), (v5, 35), (v6, 35), (v7, 35)] [(v0, 35)] [(v2, 35), (v3, 35), (v4, 35), (v5, 35), (v6, 35), (v7, 35)] v1 35 35 rfl rfl hvs
      (by norm_num [List.map_cons, List.map_nil, List.sum_cons, List.sum_nil])
  obtain ⟨A2, S2, hT2, hA2, hS2⟩ :=
    streamT_decomp 35 [(v0, 35), (v1, 35), (v2, 35), (v3, 35), (v4, 35), (v5, 35), (v6, 35), (v7, 35)] [(v0, 35), (v1, 35)] [(v3, 35), (v4, 35), (v5, 35), (v6, 35), (v7, 35)] v2 35 70 rfl rfl hvs
      (by norm_num [List.map_cons, List.map_nil, List.sum_cons, List.sum_nil])
  obtain ⟨A3, S3, hT3, hA3, hS3⟩ :=
    streamT_decomp 35 [(v0, 35), (v1, 35), (v2, 35), (v3, 35), (v4, 35), (v5, 35), (v6, 35), (v7, 35)] [(v0, 35), (v1, 35), (v2, 35)] [(v4, 35), (v5, 35), (v6, 35), (v7, 35)] v3 35 105 rfl rfl hvs
      (by norm_num [List.map_cons, List.map_nil, List.sum_cons, List.sum_nil])
  obtain ⟨A4, S4, hT4, hA4, hS4⟩ :=
    streamT_decomp 35 [(v0, 35), (v1, 35), (v2, 35), (v3, 35), (v4, 35), (v5, 35), (v6, 35), (v7, 35)] [(v0, 35), (v1, 35), (v2, 35), (v3, 35)] [(v5, 35), (v6, 35), (v7, 35)] v4 35 140 rfl rfl hvs
      (by norm_num [List.map_cons, List.map_nil, List.sum_cons, List.sum_nil])
  obtain ⟨A5, S5, hT5, hA5, hS5⟩ :=
    streamT_decomp 35 [(v0, 35), (v1, 35), (v2, 35), (v3, 35), (v4, 35), (v5, 35), (v6, 35), (v7, 35)] [(v0, 35), (v1, 35), (v2, 35), (v3, 35), (v4, 35)] [(v6, 35), (v7, 35)] v5 35 175 rfl rfl hvs
      (by norm_num [List.map_cons, List.map_nil, List.sum_cons, List.sum_nil])
  obtain ⟨A6, S6, hT6, hA6, hS6⟩ :=
    streamT_decomp 35 [(v0, 35), (v1, 35), (v2, 35), (v3, 35), (v4, 35), (v5, 35), (v6, 35), (v7, 35)] [(v0, 35), (v1, 35), (v2, 35), (v3, 35), (v4, 35), (v5, 35)] [(v7, 35)] v6 35 210 rfl rfl hvs
      (by norm_num [List.map_cons, List.map_nil, List.sum_cons, List.sum_nil])
  obtain ⟨A7, S7, hT7, hA7, hS7⟩ :=
    streamT_decomp 35 [(v0, 35), (v1, 35), (v2, 35), (v3, 35), (v4, 35), (v5, 35), (v6, 35), (v7, 35)] [(v0, 35), (v1, 35), (v2, 35), (v3, 35), (v4, 35), (v5, 35), (v6, 35)] [] v7 35 245 rfl rfl hvs
      (by norm_num [List.map_cons, List.map_nil, List.sum_cons, List.sum_nil])
  obtain ⟨B0, R0, hU0, hB0, hR0⟩ :=
    streamT_decomp2 35 [(v0, 35), (v1, 35), (v2, 35), (v3, 35), (v4, 35), (v5, 35), (v6, 35), (v7, 35)] [] [(v2, 35), (v3, 35), (v4, 35), (v5, 35), (v6, 35), (v7, 35)] v0 v1 35 35 0 rfl rfl hvs
      (by norm_num [List.map_cons, List.map_nil, List.sum_cons, List.sum_nil])
  obtain ⟨B1, R1, hU1, hB1, hR1⟩ :=
    streamT_decomp2 35 [(v0, 35), (v1, 35), (v2, 35), (v3, 35), (v4, 35), (v5, 35), (v6, 35), (v7, 35)] [(v0, 35)] [(v3, 35), (v4, 35), (v5, 35), (v6, 35), (v7, 35)] v1 v2 35 35 35 rfl rfl hvs
      (by norm_num [List.map_cons, List.map_nil, List.sum_cons, List.sum_nil])
  obtain ⟨B2, R2, hU2, hB2, hR2⟩ :=
    streamT_decomp2 35 [(v0, 35), (v1, 35), (v2, 35), (v3, 35), (v4, 35), (v5, 35), (v6, 35), (v7, 35)] [(v0, 35), (v1, 35)] [(v4, 35), (v5, 35), (v6, 35), (v7, 35)] v2 v3 35 35 70 rfl rfl hvs
      (by norm_num [List.map_cons, List.map_nil, List.sum_cons, List.sum_nil])
  obtain ⟨B3, R3, hU3, hB3, hR3⟩ :=
    streamT_decomp2 35 [(v0, 35), (v1, 35), (v2, 35), (v3, 35), (v4, 35), (v5, 35), (v6, 35), (v7, 35)] [(v0, 35), (v1, 35), (v2, 35)] [(v5, 35), (v6, 35), (v7, 35)] v3 v4 35 35 105 rfl rfl hvs
      (by norm_num [List.map_cons, List.map_nil, List.sum_cons, List.sum_nil])
  obtain ⟨B4, R4, hU4, hB4, hR4⟩ :=
    streamT_decomp2 35 [(v0, 35), (v1, 35), (v2, 35), (v3, 35), (v4, 35), (v5, 35), (v6, 35), (v7, 35)] [(v0, 35), (v1, 35), (v2, 35), (v3, 35)] [(v6, 35), (v7, 35)] v4 v5 35 35 140 rfl rfl hvs
      (by norm_num [List.map_cons, List.map_nil, List.sum_cons, List.sum_nil])
  obtain ⟨B5, R5, hU5, hB5, hR5⟩ :=
    streamT_decomp2 35 [(v0, 35), (v1, 35), (v2, 35), (v3, 35), (v4, 35), (v5, 35), (v6, 35), (v7, 35)] [(v0, 35), (v1, 35), (v2, 35), (v3, 35), (v4, 35)] [(v7, 35)] v5 v6 35 35 175 rfl rfl hvs
      (by norm_num [List.map_cons, List.map_nil, List.sum_cons, List.sum_nil])
  obtain ⟨B6, R6, hU6, hB6, hR6⟩ :=
    streamT_decomp2 35 [(v0, 35), (v1, 35), (v2, 35), (v3, 35), (v4, 35), (v5, 35), (v6, 35), (v7, 35)] [(v0, 35), (v1, 35), (v2, 35), (v3, 35), (v4, 35), (v5, 35)] [] v6 v7 35 35 210 rfl rfl hvs
      (by norm_num [List.map_cons, List.map_nil, List.sum_cons, List.sum_nil])
  rw [key, key2]
  simp only [List.cons.injEq]
  refine ⟨?_, ?_, ?_, ?_, ?_, ?_, ?_, ?_, ?_, ?_, ?_, ?_, ?_, ?_, ?_, ?_, ?_, ?_, ?_, ?_, ?_, ?_, ?_, ?_, ?_, ?_, ?_, ?_, ?_, ?_, ?_, ?_, ?_, ?_, ?_, trivial⟩
  · rw [hT0]
    exact byteSpec_mid 35 A0 v0 S0 (8 * 35 - 0 - 35) 35 0 27 hA0 hS0
      (by norm_num) (by norm_num)
  · rw [hT0]
    exact byteSpec_mid 35 A0 v0 S0 (8 * 35 - 0 - 35) 35 1 19 hA0 hS0
      (by norm_num) (by norm_num)
  · rw [hT0]
    exact byteSpec_mid 35 A0 v0 S0 (8 * 35 - 0 - 35) 35 2 11 hA0 hS0
      (by norm_num) (by norm_num)
  · rw [hT0]
    exact byteSpec_mid 35 A0 v0 S0 (8 * 35 - 0 - 35) 35 3 3 hA0 hS0
      (by norm_num) (by norm_num)
  · rw [hU0]
    exact byteSpec_bnd 35 B0 v0 v1 R0 (8 * 35 - 0 - 35 - 35) 4 3 5 30 7 31 35 hB0 hv0 hv1 hR0
      (by norm_num) (by norm_num) (by norm_num) (by norm_num) (by norm_num)
  · rw [hT1]
    exact byteSpec_mid 35 A1 v1 S1 (8 * 35 - 35 - 35) 35 5 22 hA1 hS1
      (by norm_num) (by norm_num)
  · rw [hT1]
    exact byteSpec_mid 35 A1 v1 S1 (8 * 35 - 35 - 35) 35 6 14 hA1 hS1
      (by norm_num) (by norm_num)
  · rw [hT1]
    exact byteSpec_mid 35 A1 v1 S1 (8 * 35 - 35 - 35) 35 7 6 hA1 hS1
      (by norm_num) (by norm_num)
  · rw [hU1]
    exact byteSpec_bnd 35 B1 v1 v2 R1 (8 * 35 - 35 - 35 - 35) 8 6 2 33 63 3 35 hB1 hv1 hv2 hR1
      (by norm_num) (by norm_num) (by norm_num) (by norm_num) (by norm_num)
  · rw [hT2]
    exact byteSpec_mid 35 A2 v2 S2 (8 * 35 - 70 - 35) 35 9 25 hA2 hS2
      (by norm_num) (by norm_num)
  · rw [hT2]
    exact byteSpec_mid 35 A2 v2 S2 (8 * 35 - 70 - 35) 35 10 17 hA2 hS2
      (by norm_num) (by norm_num)
  · rw [hT2]
    exact byteSpec_mid 35 A2 v2 S2 (8 * 35 - 70 - 35) 35 11 9 hA2 hS2
      (by norm_num) (by norm_num)
  · rw [hT2]
    exact byteSpec_mid 35 A2 v2 S2 (8 * 35 - 70 - 35) 35 12 1 hA2 hS2
      (by norm_num) (by norm_num)
  · rw [hU2]
    exact byteSpec_bnd 35 B2 v2 v3 R2 (8 * 35 - 70 - 35 - 35) 13 1 7 28 1 127 35 hB2 hv2 hv3 hR2
      (by norm_num) (by norm_num) (by norm_num) (by norm_num) (by norm_num)
  · rw [hT3]
    exact byteSpec_mid 35 A3 v3 S3 (8 * 35 - 105 - 35) 35 14 20 hA3 hS3
      (by norm_num) (by norm_num)
  · rw [hT3]
    exact byteSpec_mid 35 A3 v3 S3 (8 * 35 - 105 - 35) 35 15 12 hA3 hS3
      (by norm_num) (by norm_num)
  · rw [hT3]
    exact byteSpec_mid 35 A3 v3 S3 (8 * 35 - 105 - 35) 35 16 4 hA3 hS3
      (by norm_num) (by norm_num)
  · rw [hU3]
    exact byteSpec_bnd 35 B3 v3 v4 R3 (8 * 35 - 105 - 35 - 35) 17 4 4 31 15 15 35 hB3 hv3 hv4 hR3
      (by norm_num) (by norm_num) (by norm_num) (by norm_num) (by norm_num)
  · rw [hT4]
    exact byteSpec_mid 35 A4 v4 S4 (8 * 35 - 140 - 35) 35 18 23 hA4 hS4
      (by norm_num) (by norm_num)
  · rw [hT4]
    exact byteSpec_mid 35 A4 v4 S4 (8 * 35 - 140 - 35) 35 19 15 hA4 hS4
      (by norm_num) (by norm_num)
  · rw [hT4]
    exact byteSpec_mid 35 A4 v4 S4 (8 * 35 - 140 - 35) 35 20 7 hA4 hS4
      (by norm_num) (by norm_num)
  · rw [hU4]
    exact byteSpec_bnd 35 B4 v4 v5 R4 (8 * 35 - 140 - 35 - 35) 21 7 1 34 127 1 35 hB4 hv4 hv5 hR4
      (by norm_num) (by norm_num) (by norm_num) (by norm_num) (by norm_num)
  · rw [hT5]
    exact byteSpec_mid 35 A5 v5 S5 (8 * 35 - 175 - 35) 35 22 26 hA5 hS5
      (by norm_num) (by norm_num)
  · rw [hT5]
    exact byteSpec_mid 35 A5 v5 S5 (8 * 35 - 175 - 35) 35 23 18 hA5 hS5
      (by norm_num) (by norm_num)
  · rw [hT5]
    exact byteSpec_mid 35 A5 v5 S5 (8 * 35 - 175 - 35) 35 24 10 hA5 hS5
      (by norm_num) (by norm_num)
  · rw [hT5]
    exact byteSpec_mid 35 A5 v5 S5 (8 * 35 - 175 - 35) 35 25 2 hA5 hS5
      (by norm_num) (by norm_num)
  · rw [hU5]
    exact byteSpec_bnd 35 B5 v5 v6 R5 (8 * 35 - 175 - 35 - 35) 26 2 6 29 3 63 35 hB5 hv5 hv6 hR5
      (by norm_num) (by norm_num) (by norm_num) (by norm_num) (by norm_num)
  · rw [hT6]
    exact byteSpec_mid 35 A6 v6 S6 (8 * 35 - 210 - 35) 35 27 21 hA6 hS6
      (by norm_num) (by norm_num)
  · rw [hT6]
    exact byteSpec_mid 35 A6 v6 S6 (8 * 35 - 210 - 35) 35 28 13 hA6 hS6
      (by norm_num) (by norm_num)
  · rw [hT6]
    exact byteSpec_mid 35 A6 v6 S6 (8 * 35 - 210 - 35) 35 29 5 hA6 hS6
      (by norm_num) (by norm_num)
  · rw [hU6]
    exact byteSpec_bnd 35 B6 v6 v7 R6 (8 * 35 - 210 - 35 - 35) 30 5 3 32 31 7 35 hB6 hv6 hv7 hR6
      (by norm_num) (by norm_num) (by norm_num) (by norm_num) (by norm_num)
  · rw [hT7]
    exact byteSpec_mid 35 A7 v7 S7 (8 * 35 - 245 - 35) 35 31 24 hA7 hS7
      (by norm_num) (by norm_num)
  · rw [hT7]
    exact byteSpec_mid 35 A7 v7 S7 (8 * 35 - 245 - 35) 35 32 16 hA7 hS7
      (by norm_num) (by norm_num)
  · rw [hT7]
    exact byteSpec_mid 35 A7 v7 S7 (8 * 35 - 245 - 35) 35 33 8 hA7 hS7
      (by norm_num) (by norm_num)
  · rw [hT7]
    exact byteSpec_mid0 35 A7 v7 S7 (8 * 35 - 245 - 35) 35 34 hA7 hS7
      (by norm_num) (by norm_num)

set_option maxRecDepth 16000 in
set_option maxHeartbeats 1000000 in
theorem c5_pack_eq_36 (v0 v1 v2 v3 v4 v5 v6 v7 : Nat) (hv0 : v0 < 2 ^ 36) (hv1 : v1 < 2 ^ 36) (hv2 : v2 < 2 ^ 36) (hv3 : v3 < 2 ^ 36) (hv4 : v4 < 2 ^ 36) (hv5 : v5 < 2 ^ 36) (hv6 : v6 < 2 ^ 36) (hv7 : v7 < 2 ^ 36) :
    (packSeq (BitPacker.new (List.replicate 36 0)) [(v0, 36), (v1, 36), (v2, 36), (v3, 36), (v4, 36), (v5, 36), (v6, 36), (v7, 36)]).bytes
      = pack_bits_36 v0 v1 v2 v3 v4 v5 v6 v7 := by
  have hvs : ∀ p ∈ ([(v0, 36), (v1, 36), (v2, 36), (v3, 36), (v4, 36), (v5, 36), (v6, 36), (v7, 36)] : List (Nat × Nat)), p.1 < 2 ^ p.2 := by
    intro p hp
    simp only [List.mem_cons, List.not_mem_nil, or_false] at hp
    rcases hp with rfl | rfl | rfl | rfl | rfl | rfl | rfl | rfl
    exacts [hv0, hv1, hv2, hv3, hv4, hv5, hv6, hv7]
  obtain ⟨-, -, -, ⟨hlen, hbytes⟩, -, -⟩ :=
    packSeq_inv 36 [(v0, 36), (v1, 36), (v2, 36), (v3, 36), (v4, 36), (v5, 36), (v6, 36), (v7, 36)] 0 0 _ hvs
      (by norm_num [List.map_cons, List.map_nil, List.sum_cons, List.sum_nil]) (packInv_init 36)
  have key : (packSeq (BitPacker.new (List.replicate 36 0)) [(v0, 36), (v1, 36), (v2, 36), (v3, 36), (v4, 36), (v5, 36), (v6, 36), (v7, 36)]).bytes
      = [ ByteSpec 36 (streamT 36 [(v0, 36), (v1, 36), (v2, 36), (v3, 36), (v4, 36), (v5, 36), (v6, 36), (v7, 36)] 0 0) 0,
          ByteSpec 36 (streamT 36 [(v0, 36), (v1, 36), (v2, 36), (v3, 36), (v4, 36), (v5, 36), (v6, 36), (v7, 36)] 0 0) 1,
          ByteSpec 36 (streamT 36 [(v0, 36), (v1, 36), (v2, 36), (v3, 36), (v4, 36), (v5, 36), (v6, 36), (v7, 36)] 0 0) 2,
          ByteSpec 36 (streamT 36 [(v0, 36), (v1, 36), (v2, 36), (v3, 36), (v4, 36), (v5, 36), (v6, 36), (v7, 36)] 0 0) 3,
          ByteSpec 36 (streamT 36 [(v0, 36), (v1, 36), (v2, 36), (v3, 36), (v4, 36), (v5, 36), (v6, 36), (v7, 36)] 0 0) 4,
          ByteSpec 36 (streamT 36 [(v0, 36), (v1, 36), (v2, 36), (v3, 36), (v4, 36), (v5, 36), (v6, 36), (v7, 36)] 0 0) 5,
          ByteSpec 36 (streamT 36 [(v0, 36), (v1, 36), (v2, 36), (v3, 36), (v4, 36), (v5, 36), (v6, 36), (v7, 36)] 0 0) 6,
          ByteSpec 36 (streamT 36 [(v0, 36), (v1, 36), (v2, 36), (v3, 36), (v4, 36), (v5, 36), (v6, 36), (v7, 36)] 0 0) 7,
          ByteSpec 36 (streamT 36 [(v0, 36), (v1, 36), (v2, 36), (v3, 36), (v4, 36), (v5, 36), (v6, 36), (v7, 36)] 0 0) 8,
          ByteSpec 36 (streamT 36 [(v0, 36), (v1, 36), (v2, 36), (v3, 36), (v4, 36), (v5, 36), (v6, 36), (v7, 36)] 0 0) 9,
          ByteSpec 36 (streamT 36 [(v0, 36), (v1, 36), (v2, 36), (v3, 36), (v4, 36), (v5, 36), (v6, 36), (v7, 36)] 0 0) 10,
          ByteSpec 36 (streamT 36 [(v0, 36), (v1, 36), (v2, 36), (v3, 36), (v4, 36), (v5, 36), (v6, 36), (v7, 36)] 0 0) 11,
          ByteSpec 36 (streamT 36 [(v0, 36), (v1, 36), (v2, 36), (v3, 36), (v4, 36), (v5, 36), (v6, 36), (v7, 36)] 0 0) 12,
          ByteSpec 36 (streamT 36 [(v0, 36), (v1, 36), (v2, 36), (v3, 36), (v4, 36), (v5, 36), (v6, 36), (v7, 36)] 0 0) 13,
          ByteSpec 36 (streamT 36 [(v0, 36), (v1, 36), (v2, 36), (v3, 36), (v4, 36), (v5, 36), (v6, 36), (v7, 36)] 0 0) 14,
          ByteSpec 36 (streamT 36 [(v0, 36), (v1, 36), (v2, 36), (v3, 36), (v4, 36), (v5, 36), (v6, 36), (v7, 36)] 0 0) 15,
          ByteSpec 36 (streamT 36 [(v0, 36), (v1, 36), (v2, 36), (v3, 36), (v4, 36), (v5, 36), (v6, 36), (v7, 36)] 0 0) 16,
          ByteSpec 36 (streamT 36 [(v0, 36), (v1, 36), (v2, 36), (v3, 36), (v4, 36), (v5, 36), (v6, 36), (v7, 36)] 0 0) 17,
          ByteSpec 36 (streamT 36 [(v0, 36), (v1, 36), (v2, 36), (v3, 36), (v4, 36), (v5, 36), (v6, 36), (v7, 36)] 0 0) 18,
          ByteSpec 36 (streamT 36 [(v0, 36), (v1, 36), (v2, 36), (v3, 36), (v4, 36), (v5, 36), (v6, 36), (v7, 36)] 0 0) 19,
          ByteSpec 36 (streamT 36 [(v0, 36), (v1, 36), (v2, 36), (v3, 36), (v4, 36), (v5, 36), (v6, 36), (v7, 36)] 0 0) 20,
          ByteSpec 36 (streamT 36 [(v0, 36), (v1, 36), (v2, 36), (v3, 36), (v4, 36), (v5, 36), (v6, 36), (v7, 36)] 0 0) 21,
          ByteSpec 36 (streamT 36 [(v0, 36), (v1, 36), (v2, 36), (v3, 36), (v4, 36), (v5, 36), (v6, 36), (v7, 36)] 0 0) 22,
          ByteSpec 36 (streamT 36 [(v0, 36), (v1, 36), (v2, 36), (v3, 36), (v4, 36), (v5, 36), (v6, 36), (v7, 36)] 0 0) 23,
          ByteSpec 36 (streamT 36 [(v0, 36), (v1, 36), (v2, 36), (v3, 36), (v4, 36), (v5, 36), (v6, 36), (v7, 36)] 0 0) 24,
          ByteSpec 36 (streamT 36 [(v0, 36), (v1, 36), (v2, 36), (v3, 36), (v4, 36), (v5, 36), (v6, 36), (v7, 36)] 0 0) 25,
          ByteSpec 36 (streamT 36 [(v0, 36), (v1, 36), (v2, 36), (v3, 36), (v4, 36), (v5, 36), (v6, 36), (v7, 36)] 0 0) 26,
          ByteSpec 36 (streamT 36 [(v0, 36), (v1, 36), (v2, 36), (v3, 36), (v4, 36), (v5, 36), (v6, 36), (v7, 36)] 0 0) 27,
          ByteSpec 36 (streamT 36 [(v0, 36), (v1, 36), (v2, 36), (v3, 36), (v4, 36), (v5, 36), (v6, 36), (v7, 36)] 0 0) 28,
          ByteSpec 36 (streamT 36 [(v0, 36), (v1, 36), (v2, 36), (v3, 36), (v4, 36), (v5, 36), (v6, 36), (v7, 36)] 0 0) 29,
          ByteSpec 36 (streamT 36 [(v0, 36), (v1, 36), (v2, 36), (v3, 36), (v4, 36), (v5, 36), (v6, 36), (v7, 36)] 0 0) 30,
          ByteSpec 36 (streamT 36 [(v0, 36), (v1, 36), (v2, 36), (v3, 36), (v4, 36), (v5, 36), (v6, 36), (v7, 36)] 0 0) 31,
          ByteSpec 36 (streamT 36 [(v0, 36), (v1, 36), (v2, 36), (v3, 36), (v4, 36), (v5, 36), (v6, 36), (v7, 36)] 0 0) 32,
          ByteSpec 36 (streamT 36 [(v0, 36), (v1, 36), (v2, 36), (v3, 36), (v4, 36), (v5, 36), (v6, 36), (v7, 36)] 0 0) 33,
          ByteSpec 36 (streamT 36 [(v0, 36), (v1, 36), (v2, 36), (v3, 36), (v4, 36), (v5, 36), (v6, 36), (v7, 36)] 0 0) 34,
          ByteSpec 36 (streamT 36 [(v0, 36), (v1, 36), (v2, 36), (v3, 36), (v4, 36), (v5, 36), (v6, 36), (v7, 36)] 0 0) 35 ] :=
    (list_eq_map_range_of_getD _ _ 36 hlen hbytes).trans (by rfl)
  have key2 : pack_bits_36 v0 v1 v2 v3 v4 v5 v6 v7
      = [ u8 (((v0 >>> 28) &&& 0xff)),
          u8 (((v0 >>> 20) &&& 0xff)),
          u8 (((v0 >>> 12) &&& 0xff)),
          u8 (((v0 >>> 4) &&& 0xff)),
          u8 (((((v0) &&& 0xf) <<< 4) ||| ((v1 >>> 32) &&& 0xf))),
          u8 (((v1 >>> 24) &&& 0xff)),
          u8 (((v1 >>> 16) &&& 0xff)),
          u8 (((v1 >>> 8) &&& 0xff)),
          u8 (((v1) &&& 0xff)),
          u8 (((v2 >>> 28) &&& 0xff)),
          u8 (((v2 >>> 20) &&& 0xff)),
          u8 (((v2 >>> 12) &&& 0xff)),
          u8 (((v2 >>> 4) &&& 0xff)),
          u8 (((((v2) &&& 0xf) <<< 4) ||| ((v3 >>> 32) &&& 0xf))),
          u8 (((v3 >>> 24) &&& 0xff)),
          u8 (((v3 >>> 16) &&& 0xff)),
          u8 (((v3 >>> 8) &&& 0xff)),
          u8 (((v3) &&& 0xff)),
          u8 (((v4 >>> 28) &&& 0xff)),
          u8 (((v4 >>> 20) &&& 0xff)),
          u8 (((v4 >>> 12) &&& 0xff)),
          u8 (((v4 >>> 4) &&& 0xff)),
          u8 (((((v4) &&& 0xf) <<< 4) ||| ((v5 >>> 32) &&& 0xf))),
          u8 (((v5 >>> 24) &&& 0xff)),
          u8 (((v5 >>> 16) &&& 0xff)),
          u8 (((v5 >>> 8) &&& 0xff)),
          u8 (((v5) &&& 0xff)),
          u8 (((v6 >>> 28) &&& 0xff)),
          u8 (((v6 >>> 20) &&& 0xff)),
          u8 (((v6 >>> 12) &&& 0xff)),
          u8 (((v6 >>> 4) &&& 0xff)),
          u8 (((((v6) &&& 0xf) <<< 4) ||| ((v7 >>> 32) &&& 0xf))),
          u8 (((v7 >>> 24) &&& 0xff)),
          u8 (((v7 >>> 16) &&& 0xff)),
          u8 (((v7 >>> 8) &&& 0xff)),
          u8 (((v7) &&& 0xff)) ] := rfl
  obtain ⟨A0, S0, hT0, hA0, hS0⟩ :=
    streamT_decomp 36 [(v0, 36), (v1, 36), (v2, 36), (v3, 36), (v4, 36), (v5, 36), (v6, 36), (v7, 36)] [] [(v1, 36), (v2, 36), (v3, 36), (v4, 36), (v5, 36), (v6, 36), (v7, 36)] v0 36 0 rfl rfl hvs
      (by norm_num [List.map_cons, List.map_nil, List.sum_cons, List.sum_nil])
  obtain ⟨A1, S1, hT1, hA1, hS1⟩ :=
    streamT_decomp 36 [(v0, 36), (v1, 36), (v2, 36), (v3, 36), (v4, 36), (v5, 36), (v6, 36), (v7, 36)] [(v0, 36)] [(v2, 36), (v3, 36), (v4, 36), (v5, 36), (v6, 36), (v7, 36)] v1 36 36 rfl rfl hvs
      (by norm_num [List.map_cons, List.map_nil, List.sum_cons, List.sum_nil])
  obtain ⟨A2, S2, hT2, hA2, hS2⟩ :=
    streamT_decomp 36 [(v0, 36), (v1, 36), (v2, 36), (v3, 36), (v4, 36), (v5, 36), (v6, 36), (v7, 36)] [(v0, 36), (v1, 36)] [(v3, 36), (v4, 36), (v5, 36), (v6, 36), (v7, 36)] v2 36 72 rfl rfl hvs
      (by norm_num [List.map_cons, List.map_nil, List.sum_cons, List.sum_nil])
  obtain ⟨A3, S3, hT3, hA3, hS3⟩ :=
    streamT_decomp 36 [(v0, 36), (v1, 36), (v2, 36), (v3, 36), (v4, 36), (v5, 36), (v6, 36), (v7, 36)] [(v0, 36), (v1, 36), (v2, 36)] [(v4, 36), (v5, 36), (v6, 36), (v7, 36)] v3 36 108 rfl rfl hvs
      (by norm_num [List.map_cons, List.map_nil, List.sum_cons, List.sum_nil])
  obtain ⟨A4, S4, hT4, hA4, hS4⟩ :=
    streamT_decomp 36 [(v0, 36), (v1, 36), (v2, 36), (v3, 36), (v4, 36), (v5, 36), (v6, 36), (v7, 36)] [(v0, 36), (v1, 36), (v2, 36), (v3, 36)] [(v5, 36), (v6, 36), (v7, 36)] v4 36 144 rfl rfl hvs
      (by norm_num [List.map_cons, List.map_nil, List.sum_cons, List.sum_nil])
  obtain ⟨A5, S5, hT5, hA5, hS5⟩ :=
    streamT_decomp 36 [(v0, 36), (v1, 36), (v2, 36), (v3, 36), (v4, 36), (v5, 36), (v6, 36), (v7, 36)] [(v0, 36), (v1, 36), (v2, 36), (v3, 36), (v4, 36)] [(v6, 36), (v7, 36)] v5 36 180 rfl rfl hvs
      (by norm_num [List.map_cons, List.map_nil, List.sum_cons, List.sum_nil])
  obtain ⟨A6, S6, hT6, hA6, hS6⟩ :=
    streamT_decomp 36 [(v0, 36), (v1, 36), (v2, 36), (v3, 36), (v4, 36), (v5, 36), (v6, 36), (v7, 36)] [(v0, 36), (v1, 36), (v2, 36), (v3, 36), (v4, 36), (v5, 36)] [(v7, 36)] v6 36 216 rfl rfl hvs
      (by norm_num [List.map_cons, List.map_nil, List.sum_cons, List.sum_nil])
  obtain ⟨A7, S7, hT7, hA7, hS7⟩ :=
    streamT_decomp 36 [(v0, 36), (v1, 36), (v2, 36), (v3, 36), (v4, 36), (v5, 36), (v6, 36), (v7, 36)] [(v0, 36), (v1, 36), (v2, 36), (v3, 36), (v4, 36), (v5, 36), (v6, 36)] [] v7 36 252 rfl rfl hvs
      (by norm_num [List.map_cons, List.map_nil, List.sum_cons, List.sum_nil])
  obtain ⟨B0, R0, hU0, hB0, hR0⟩ :=
    streamT_decomp2 36 [(v0, 36), (v1, 36), (v2, 36), (v3, 36), (v4, 36), (v5, 36), (v6, 36), (v7, 36)] [] [(v2, 36), (v3, 36), (v4, 36), (v5, 36), (v6, 36), (v7, 36)] v0 v1 36 36 0 rfl rfl hvs
      (by norm_num [List.map_cons, List.map_nil, List.sum_cons, List.sum_nil])
  obtain ⟨B2, R2, hU2, hB2, hR2⟩ :=
    streamT_decomp2 36 [(v0, 36), (v1, 36), (v2, 36), (v3, 36), (v4, 36), (v5, 36), (v6, 36), (v7, 36)] [(v0, 36), (v1, 36)] [(v4, 36), (v5, 36), (v6, 36), (v7, 36)] v2 v3 36 36 72 rfl rfl hvs
      (by norm_num [List.map_cons, List.map_nil, List.sum_cons, List.sum_nil])
  obtain ⟨B4, R4, hU4, hB4, hR4⟩ :=
    streamT_decomp2 36 [(v0, 36), (v1, 36), (v2, 36), (v3, 36), (v4, 36), (v5, 36), (v6, 36), (v7, 36)] [(v0, 36), (v1, 36), (v2, 36), (v3, 36)] [(v6, 36), (v7, 36)] v4 v5 36 36 144 rfl rfl hvs
      (by norm_num [List.map_cons, List.map_nil, List.sum_cons, List.sum_nil])
  obtain ⟨B6, R6, hU6, hB6, hR6⟩ :=
    streamT_decomp2 36 [(v0, 36), (v1, 36), (v2, 36), (v3, 36), (v4, 36), (v5, 36), (v6, 36), (v7, 36)] [(v0, 36), (v1, 36), (v2, 36), (v3, 36), (v4, 36), (v5, 36)] [] v6 v7 36 36 216 rfl rfl hvs
      (by norm_num [List.map_cons, List.map_nil, List.sum_cons, List.sum_nil])
  rw [key, key2]
  simp only [List.cons.injEq]
  refine ⟨?_, ?_, ?_, ?_, ?_, ?_, ?_, ?_, ?_, ?_, ?_, ?_, ?_, ?_, ?_, ?_, ?_, ?_, ?_, ?_, ?_, ?_, ?_, ?_, ?_, ?_, ?_, ?_, ?_, ?_, ?_, ?_, ?_, ?_, ?_, ?_, trivial⟩
  · rw [hT0]
    exact byteSpec_mid 36 A0 v0 S0 (8 * 36 - 0 - 36) 36 0 28 hA0 hS0
      (by norm_num) (by norm_num)
  · rw [hT0]
    exact byteSpec_mid 36 A0 v0 S0 (8 * 36 - 0 - 36) 36 1 20 hA0 hS0
      (by norm_num) (by norm_num)
  · rw [hT0]
    exact byteSpec_mid 36 A0 v0 S0 (8 * 36 - 0 - 36) 36 2 12 hA0 hS0
      (by norm_num) (by norm_num)
  · rw [hT0]
    exact byteSpec_mid 36 A0 v0 S0 (8 * 36 - 0 - 36) 36 3 4 hA0 hS0
      (by norm_num) (by norm_num)
  · rw [hU0]
    exact byteSpec_bnd 36 B0 v0 v1 R0 (8 * 36 - 0 - 36 - 36) 4 4 4 32 15 15 36 hB0 hv0 hv1 hR0
      (by norm_num) (by norm_num) (by norm_num) (by norm_num) (by norm_num)
  · rw [hT1]
    exact byteSpec_mid 36 A1 v1 S1 (8 * 36 - 36 - 36) 36 5 24 hA1 hS1
      (by norm_num) (by norm_num)
  · rw [hT1]
    exact byteSpec_mid 36 A1 v1 S1 (8 * 36 - 36 - 36) 36 6 16 hA1 hS1
      (by norm_num) (by norm_num)
  · rw [hT1]
    exact byteSpec_mid 36 A1 v1 S1 (8 * 36 - 36 - 36) 36 7 8 hA1 hS1
      (by norm_num) (by norm_num)
  · rw [hT1]
    exact byteSpec_mid0 36 A1 v1 S1 (8 * 36 - 36 - 36) 36 8 hA1 hS1
      (by norm_num) (by norm_num)
  · rw [hT2]
    exact byteSpec_mid 36 A2 v2 S2 (8 * 36 - 72 - 36) 36 9 28 hA2 hS2
      (by norm_num) (by norm_num)
  · rw [hT2]
    exact byteSpec_mid 36 A2 v2 S2 (8 * 36 - 72 - 36) 36 10 20 hA2 hS2
      (by norm_num) (by norm_num)
  · rw [hT2]
    exact byteSpec_mid 36 A2 v2 S2 (8 * 36 - 72 - 36) 36 11 12 hA2 hS2
      (by norm_num) (by norm_num)
  · rw [hT2]
    exact byteSpec_mid 36 A2 v2 S2 (8 * 36 - 72 - 36) 36 12 4 hA2 hS2
      (by norm_num) (by norm_num)
  · rw [hU2]
    exact byteSpec_bnd 36 B2 v2 v3 R2 (8 * 36 - 72 - 36 - 36) 13 4 4 32 15 15 36 hB2 hv2 hv3 hR2
      (by norm_num) (by norm_num) (by norm_num) (by norm_num) (by norm_num)
  · rw [hT3]
    exact byteSpec_mid 36 A3 v3 S3 (8 * 36 - 108 - 36) 36 14 24 hA3 hS3
      (by norm_num) (by norm_num)
  · rw [hT3]
    exact byteSpec_mid 36 A3 v3 S3 (8 * 36 - 108 - 36) 36 15 16 hA3 hS3
      (by norm_num) (by norm_num)
  · rw [hT3]
    exact byteSpec_mid 36 A3 v3 S3 (8 * 36 - 108 - 36) 36 16 8 hA3 hS3
      (by norm_num) (by norm_num)
  · rw [hT3]
    exact byteSpec_mid0 36 A3 v3 S3 (8 * 36 - 108 - 36) 36 17 hA3 hS3
      (by norm_num) (by norm_num)
  · rw [hT4]
    exact byteSpec_mid 36 A4 v4 S4 (8 * 36 - 144 - 36) 36 18 28 hA4 hS4
      (by norm_num) (by norm_num)
  · rw [hT4]
    exact byteSpec_mid 36 A4 v4 S4 (8 * 36 - 144 - 36) 36 19 20 hA4 hS4
      (by norm_num) (by norm_num)
  · rw [hT4]
    exact byteSpec_mid 36 A4 v4 S4 (8 * 36 - 144 - 36) 36 20 12 hA4 hS4
      (by norm_num) (by norm_num)
  · rw [hT4]
    exact byteSpec_mid 36 A4 v4 S4 (8 * 36 - 144 - 36) 36 21 4 hA4 hS4
      (by norm_num) (by norm_num)
  · rw [hU4]
    exact byteSpec_bnd 36 B4 v4 v5 R4 (8 * 36 - 144 - 36 - 36) 22 4 4 32 15 15 36 hB4 hv4 hv5 hR4
      (by norm_num) (by norm_num) (by norm_num) (by norm_num) (by norm_num)
  · rw [hT5]
    exact byteSpec_mid 36 A5 v5 S5 (8 * 36 - 180 - 36) 36 23 24 hA5 hS5
      (by norm_num) (by norm_num)
  · rw [hT5]
    exact byteSpec_mid 36 A5 v5 S5 (8 * 36 - 180 - 36) 36 24 16 hA5 hS5
      (by norm_num) (by norm_num)
  · rw [hT5]
    exact byteSpec_mid 36 A5 v5 S5 (8 * 36 - 180 - 36) 36 25 8 hA5 hS5
      (by norm_num) (by norm_num)
  · rw [hT5]
    exact byteSpec_mid0 36 A5 v5 S5 (8 * 36 - 180 - 36) 36 26 hA5 hS5
      (by norm_num) (by norm_num)
  · rw [hT6]
    exact byteSpec_mid 36 A6 v6 S6 (8 * 36 - 216 - 36) 36 27 28 hA6 hS6
      (by norm_num) (by norm_num)
  · rw [hT6]
    exact byteSpec_mid 36 A6 v6 S6 (8 * 36 - 216 - 36) 36 28 20 hA6 hS6
      (by norm_num) (by norm_num)
  · rw [hT6]
    exact byteSpec_mid 36 A6 v6 S6 (8 * 36 - 216 - 36) 36 29 12 hA6 hS6
      (by norm_num) (by norm_num)
  · rw [hT6]
    exact byteSpec_mid 36 A6 v6 S6 (8 * 36 - 216 - 36) 36 30 4 hA6 hS6
      (by norm_num) (by norm_num)
  · rw [hU6]
    exact byteSpec_bnd 36 B6 v6 v7 R6 (8 * 36 - 216 - 36 - 36) 31 4 4 32 15 15 36 hB6 hv6 hv7 hR6
      (by norm_num) (by norm_num) (by norm_num) (by norm_num) (by norm_num)
  · rw [hT7]
    exact byteSpec_mid 36 A7 v7 S7 (8 * 36 - 252 - 36) 36 32 24 hA7 hS7
      (by norm_num) (by norm_num)
  · rw [hT7]
    exact byteSpec_mid 36 A7 v7 S7 (8 * 36 - 252 - 36) 36 33 16 hA7 hS7
      (by norm_num) (by norm_num)
  · rw [hT7]
    exact byteSpec_mid 36 A7 v7 S7 (8 * 36 - 252 - 36) 36 34 8 hA7 hS7
      (by norm_num) (by norm_num)
  · rw [hT7]
    exact byteSpec_mid0 36 A7 v7 S7 (8 * 36 - 252 - 36) 36 35 hA7 hS7
      (by norm_num) (by norm_num)

set_option maxRecDepth 16000 in
set_option maxHeartbeats 1000000 in
theorem c5_pack_eq_37 (v0 v1 v2 v3 v4 v5 v6 v7 : Nat) (hv0 : v0 < 2 ^ 37) (hv1 : v1 < 2 ^ 37) (hv2 : v2 < 2 ^ 37) (hv3 : v3 < 2 ^ 37) (hv4 : v4 < 2 ^ 37) (hv5 : v5 < 2 ^ 37) (hv6 : v6 < 2 ^ 37) (hv7 : v7 < 2 ^ 37) :
    (packSeq (BitPacker.new (List.replicate 37 0)) [(v0, 37), (v1, 37), (v2, 37), (v3, 37), (v4, 37), (v5, 37), (v6, 37), (v7, 37)]).bytes
      = pack_bits_37 v0 v1 v2 v3 v4 v5 v6 v7 := by
  have hvs : ∀ p ∈ ([(v0, 37), (v1, 37), (v2, 37), (v3, 37), (v4, 37), (v5, 37), (v6, 37), (v7, 37)] : List (Nat × Nat)), p.1 < 2 ^ p.2 := by
    intro p hp
    simp only [List.mem_cons, List.not_mem_nil, or_false] at hp
    rcases hp with rfl | rfl | rfl | rfl | rfl | rfl | rfl | rfl
    exacts [hv0, hv1, hv2, hv3, hv4, hv5, hv6, hv7]
  obtain ⟨-, -, -, ⟨hlen, hbytes⟩, -, -⟩ :=
    packSeq_inv 37 [(v0, 37), (v1, 37), (v2, 37), (v3, 37), (v4, 37), (v5, 37), (v6, 37), (v7, 37)] 0 0 _ hvs
      (by norm_num [List.map_cons, List.map_nil, List.sum_cons, List.sum_nil]) (packInv_init 37)
  have key : (packSeq (BitPacker.new (List.replicate 37 0)) [(v0, 37), (v1, 37), (v2, 37), (v3, 37), (v4, 37), (v5, 37), (v6, 37), (v7, 37)]).bytes
      = [ ByteSpec 37 (streamT 37 [(v0, 37), (v1, 37), (v2, 37), (v3, 37), (v4, 37), (v5, 37), (v6, 37), (v7, 37)] 0 0) 0,
          ByteSpec 37 (streamT 37 [(v0, 37), (v1, 37), (v2, 37), (v3, 37), (v4, 37), (v5, 37), (v6, 37), (v7, 37)] 0 0) 1,
          ByteSpec 37 (streamT 37 [(v0, 37), (v1, 37), (v2, 37), (v3, 37), (v4, 37), (v5, 37), (v6, 37), (v7, 37)] 0 0) 2,
          ByteSpec 37 (streamT 37 [(v0, 37), (v1, 37), (v2, 37), (v3, 37), (v4, 37), (v5, 37), (v6, 37), (v7, 37)] 0 0) 3,
          ByteSpec 37 (streamT 37 [(v0, 37), (v1, 37), (v2, 37), (v3, 37), (v4, 37), (v5, 37), (v6, 37), (v7, 37)] 0 0) 4,
          ByteSpec 37 (streamT 37 [(v0, 37), (v1, 37), (v2, 37), (v3, 37), (v4, 37), (v5, 37), (v6, 37), (v7, 37)] 0 0) 5,
          ByteSpec 37 (streamT 37 [(v0, 37), (v1, 37), (v2, 37), (v3, 37), (v4, 37), (v5, 37), (v6, 37), (v7, 37)] 0 0) 6,
          ByteSpec 37 (streamT 37 [(v0, 37), (v1, 37), (v2, 37), (v3, 37), (v4, 37), (v5, 37), (v6, 37), (v7, 37)] 0 0) 7,
          ByteSpec 37 (streamT 37 [(v0, 37), (v1, 37), (v2, 37), (v3, 37), (v4, 37), (v5, 37), (v6, 37), (v7, 37)] 0 0) 8,
          ByteSpec 37 (streamT 37 [(v0, 37), (v1, 37), (v2, 37), (v3, 37), (v4, 37), (v5, 37), (v6, 37), (v7, 37)] 0 0) 9,
          ByteSpec 37 (streamT 37 [(v0, 37), (v1, 37), (v2, 37), (v3, 37), (v4, 37), (v5, 37), (v6, 37), (v7, 37)] 0 0) 10,
          ByteSpec 37 (streamT 37 [(v0, 37), (v1, 37), (v2, 37), (v3, 37), (v4, 37), (v5, 37), (v6, 37), (v7, 37)] 0 0) 11,
          ByteSpec 37 (streamT 37 [(v0, 37), (v1, 37), (v2, 37), (v3, 37), (v4, 37), (v5, 37), (v6, 37), (v7, 37)] 0 0) 12,
          ByteSpec 37 (streamT 37 [(v0, 37), (v1, 37), (v2, 37), (v3, 37), (v4, 37), (v5, 37), (v6, 37), (v7, 37)] 0 0) 13,
          ByteSpec 37 (streamT 37 [(v0, 37), (v1, 37), (v2, 37), (v3, 37), (v4, 37), (v5, 37), (v6, 37), (v7, 37)] 0 0) 14,
          ByteSpec 37 (streamT 37 [(v0, 37), (v1, 37), (v2, 37), (v3, 37), (v4, 37), (v5, 37), (v6, 37), (v7, 37)] 0 0) 15,
          ByteSpec 37 (streamT 37 [(v0, 37), (v1, 37), (v2, 37), (v3, 37), (v4, 37), (v5, 37), (v6, 37), (v7, 37)] 0 0) 16,
          ByteSpec 37 (streamT 37 [(v0, 37), (v1, 37), (v2, 37), (v3, 37), (v4, 37), (v5, 37), (v6, 37), (v7, 37)] 0 0) 17,
          ByteSpec 37 (streamT 37 [(v0, 37), (v1, 37), (v2, 37), (v3, 37), (v4, 37), (v5, 37), (v6, 37), (v7, 37)] 0 0) 18,
          ByteSpec 37 (streamT 37 [(v0, 37), (v1, 37), (v2, 37), (v3, 37), (v4, 37), (v5, 37), (v6, 37), (v7, 37)] 0 0) 19,
          ByteSpec 37 (streamT 37 [(v0, 37), (v1, 37), (v2, 37), (v3, 37), (v4, 37), (v5, 37), (v6, 37), (v7, 37)] 0 0) 20,
          ByteSpec 37 (streamT 37 [(v0, 37), (v1, 37), (v2, 37), (v3, 37), (v4, 37), (v5, 37), (v6, 37), (v7, 37)] 0 0) 21,
          ByteSpec 37 (streamT 37 [(v0, 37), (v1, 37), (v2, 37), (v3, 37), (v4, 37), (v5, 37), (v6, 37), (v7, 37)] 0 0) 22,
          ByteSpec 37 (streamT 37 [(v0, 37), (v1, 37), (v2, 37), (v3, 37), (v4, 37), (v5, 37), (v6, 37), (v7, 37)] 0 0) 23,
          ByteSpec 37 (streamT 37 [(v0, 37), (v1, 37), (v2, 37), (v3, 37), (v4, 37), (v5, 37), (v6, 37), (v7, 37)] 0 0) 24,
          ByteSpec 37 (streamT 37 [(v0, 37), (v1, 37), (v2, 37), (v3, 37), (v4, 37), (v5, 37), (v6, 37), (v7, 37)] 0 0) 25,
          ByteSpec 37 (streamT 37 [(v0, 37), (v1, 37), (v2, 37), (v3, 37), (v4, 37), (v5, 37), (v6, 37), (v7, 37)] 0 0) 26,
          ByteSpec 37 (streamT 37 [(v0, 37), (v1, 37), (v2, 37), (v3, 37), (v4, 37), (v5, 37), (v6, 37), (v7, 37)] 0 0) 27,
          ByteSpec 37 (streamT 37 [(v0, 37), (v1, 37), (v2, 37), (v3, 37), (v4, 37), (v5, 37), (v6, 37), (v7, 37)] 0 0) 28,
          ByteSpec 37 (streamT 37 [(v0, 37), (v1, 37), (v2, 37), (v3, 37), (v4, 37), (v5, 37), (v6, 37), (v7, 37)] 0 0) 29,
          ByteSpec 37 (streamT 37 [(v0, 37), (v1, 37), (v2, 37), (v3, 37), (v4, 37), (v5, 37), (v6, 37), (v7, 37)] 0 0) 30,
          ByteSpec 37 (streamT 37 [(v0, 37), (v1, 37), (v2, 37), (v3, 37), (v4, 37), (v5, 37), (v6, 37), (v7, 37)] 0 0) 31,
          ByteSpec 37 (streamT 37 [(v0, 37), (v1, 37), (v2, 37), (v3, 37), (v4, 37), (v5, 37), (v6, 37), (v7, 37)] 0 0) 32,
          ByteSpec 37 (streamT 37 [(v0, 37), (v1, 37), (v2, 37), (v3, 37), (v4, 37), (v5, 37), (v6, 37), (v7, 37)] 0 0) 33,
          ByteSpec 37 (streamT 37 [(v0, 37), (v1, 37), (v2, 37), (v3, 37), (v4, 37), (v5, 37), (v6, 37), (v7, 37)] 0 0) 34,
          ByteSpec 37 (streamT 37 [(v0, 37), (v1, 37), (v2, 37), (v3, 37), (v4, 37), (v5, 37), (v6, 37), (v7, 37)] 0 0) 35,
          ByteSpec 37 (streamT 37 [(v0, 37), (v1, 37), (v2, 37), (v3, 37), (v4, 37), (v5, 37), (v6, 37), (v7, 37)] 0 0) 36 ] :=
    (list_eq_map_range_of_getD _ _ 37 hlen hbytes).trans (by rfl)
  have key2 : pack_bits_37 v0 v1 v2 v3 v4 v5 v6 v7
      = [ u8 (((v0 >>> 29) &&& 0xff)),
          u8 (((v0 >>> 21) &&& 0xff)),
          u8 (((v0 >>> 13) &&& 0xff)),
          u8 (((v0 >>> 5) &&& 0xff)),
          u8 (((((v0) &&& 0x1f) <<< 3) ||| ((v1 >>> 34) &&& 0x7))),
          u8 (((v1 >>> 26) &&& 0xff)),
          u8 (((v1 >>> 18) &&& 0xff)),
          u8 (((v1 >>> 10) &&& 0xff)),
          u8 (((v1 >>> 2) &&& 0xff)),
          u8 (((((v1) &&& 0x3) <<< 6) ||| ((v2 >>> 31) &&& 0x3f))),
          u8 (((v2 >>> 23) &&& 0xff)),
          u8 (((v2 >>> 15) &&& 0xff)),
          u8 (((v2 >>> 7) &&& 0xff)),
          u8 (((((v2) &&& 0x7f) <<< 1) ||| ((v3 >>> 36) &&& 0x1))),
          u8 (((v3 >>> 28) &&& 0xff)),
          u8 (((v3 >>> 20) &&& 0xff)),
          u8 (((v3 >>> 12) &&& 0xff)),
          u8 (((v3 >>> 4) &&& 0xff)),
          u8 (((((v3) &&& 0xf) <<< 4) ||| ((v4 >>> 33) &&& 0xf))),
          u8 (((v4 >>> 25) &&& 0xff)),
          u8 (((v4 >>> 17) &&& 0xff)),
          u8 (((v4 >>> 9) &&& 0xff)),
          u8 (((v4 >>> 1) &&& 0xff)),
          u8 (((((v4) &&& 0x1) <<< 7) ||| ((v5 >>> 30) &&& 0x7f))),
          u8 (((v5 >>> 22) &&& 0xff)),
          u8 (((v5 >>> 14) &&& 0xff)),
          u8 (((v5 >>> 6) &&& 0xff)),
          u8 (((((v5) &&& 0x3f) <<< 2) ||| ((v6 >>> 35) &&& 0x3))),
          u8 (((v6 >>> 27) &&& 0xff)),
          u8 (((v6 >>> 19) &&& 0xff)),
          u8 (((v6 >>> 11) &&& 0xff)),
          u8 (((v6 >>> 3) &&& 0xff)),
          u8 (((((v6) &&& 0x7) <<< 5) ||| ((v7 >>> 32) &&& 0x1f))),
          u8 (((v7 >>> 24) &&& 0xff)),
          u8 (((v7 >>> 16) &&& 0xff)),
          u8 (((v7 >>> 8) &&& 0xff)),
          u8 (((v7) &&& 0xff)) ] := rfl
  obtain ⟨A0, S0, hT0, hA0, hS0⟩ :=
    streamT_decomp 37 [(v0, 37), (v1, 37), (v2, 37), (v3, 37), (v4, 37), (v5, 37), (v6, 37), (v7, 37)] [] [(v1, 37), (v2, 37), (v3, 37), (v4, 37), (v5, 37), (v6, 37), (v7, 37)] v0 37 0 rfl rfl hvs
      (by norm_num [List.map_cons, List.map_nil, List.sum_cons, List.sum_nil])
  obtain ⟨A1, S1, hT1, hA1, hS1⟩ :=
    streamT_decomp 37 [(v0, 37), (v1, 37), (v2, 37), (v3, 37), (v4, 37), (v5, 37), (v6, 37), (v7, 37)] [(v0, 37)] [(v2, 37), (v3, 37), (v4, 37), (v5, 37), (v6, 37), (v7, 37)] v1 37 37 rfl rfl hvs
      (by norm_num [List.map_cons, List.map_nil, List.sum_cons, List.sum_nil])
  obtain ⟨A2, S2, hT2, hA2, hS2⟩ :=
    streamT_decomp 37 [(v0, 37), (v1, 37), (v2, 37), (v3, 37), (v4, 37), (v5, 37), (v6, 37), (v7, 37)] [(v0, 37), (v1, 37)] [(v3, 37), (v4, 37), (v5, 37), (v6, 37), (v7, 37)] v2 37 74 rfl rfl hvs
      (by norm_num [List.map_cons, List.map_nil, List.sum_cons, List.sum_nil])
  obtain ⟨A3, S3, hT3, hA3, hS3⟩ :=
    streamT_decomp 37 [(v0, 37), (v1, 37), (v2, 37), (v3, 37), (v4, 37), (v5, 37), (v6, 37), (v7, 37)] [(v0, 37), (v1, 37), (v2, 37)] [(v4, 37), (v5, 37), (v6, 37), (v7, 37)] v3 37 111 rfl rfl hvs
      (by norm_num [List.map_cons, List.map_nil, List.sum_cons, List.sum_nil])
  obtain ⟨A4, S4, hT4, hA4, hS4⟩ :=
    streamT_decomp 37 [(v0, 37), (v1, 37), (v2, 37), (v3, 37), (v4, 37), (v5, 37), (v6, 37), (v7, 37)] [(v0, 37), (v1, 37), (v2, 37), (v3, 37)] [(v5, 37), (v6, 37), (v7, 37)] v4 37 148 rfl rfl hvs
      (by norm_num [List.map_cons, List.map_nil, List.sum_cons, List.sum_nil])
  obtain ⟨A5, S5, hT5, hA5, hS5⟩ :=
    streamT_decomp 37 [(v0, 37), (v1, 37), (v2, 37), (v3, 37), (v4, 37), (v5, 37), (v6, 37), (v7, 37)] [(v0, 37), (v1, 37), (v2, 37), (v3, 37), (v4, 37)] [(v6, 37), (v7, 37)] v5 37 185 rfl rfl hvs
      (by norm_num [List.map_cons, List.map_nil, List.sum_cons, List.sum_nil])
  obtain ⟨A6, S6, hT6, hA6, hS6⟩ :=
    streamT_decomp 37 [(v0, 37), (v1, 37), (v2, 37), (v3, 37), (v4, 37), (v5, 37), (v6, 37), (v7, 37)] [(v0, 37), (v1, 37), (v2, 37), (v3, 37), (v4, 37), (v5, 37)] [(v7, 37)] v6 37 222 rfl rfl hvs
      (by norm_num [List.map_cons, List.map_nil, List.sum_cons, List.sum_nil])
  obtain ⟨A7, S7, hT7, hA7, hS7⟩ :=
    streamT_decomp 37 [(v0, 37), (v1, 37), (v2, 37), (v3, 37), (v4, 37), (v5, 37), (v6, 37), (v7, 37)] [(v0, 37), (v1, 37), (v2, 37), (v3, 37), (v4, 37), (v5, 37), (v6, 37)] [] v7 37 259 rfl rfl hvs
      (by norm_num [List.map_cons, List.map_nil, List.sum_cons, List.sum_nil])
  obtain ⟨B0, R0, hU0, hB0, hR0⟩ :=
    streamT_decomp2 37 [(v0, 37), (v1, 37), (v2, 37), (v3, 37), (v4, 37), (v5, 37), (v6, 37), (v7, 37)] [] [(v2, 37), (v3, 37), (v4, 37), (v5, 37), (v6, 37), (v7, 37)] v0 v1 37 37 0 rfl rfl hvs
      (by norm_num [List.map_cons, List.map_nil, List.sum_cons, List.sum_nil])
  obtain ⟨B1, R1, hU1, hB1, hR1⟩ :=
    streamT_decomp2 37 [(v0, 37), (v1, 37), (v2, 37), (v3, 37), (v4, 37), (v5, 37), (v6, 37), (v7, 37)] [(v0, 37)] [(v3, 37), (v4, 37), (v5, 37), (v6, 37), (v7, 37)] v1 v2 37 37 37 rfl rfl hvs
      (by norm_num [List.map_cons, List.map_nil, List.sum_cons, List.sum_nil])
  obtain ⟨B2, R2, hU2, hB2, hR2⟩ :=
    streamT_decomp2 37 [(v0, 37), (v1, 37), (v2, 37), (v3, 37), (v4, 37), (v5, 37), (v6, 37), (v7, 37)] [(v0, 37), (v1, 37)] [(v4, 37), (v5, 37), (v6, 37), (v7, 37)] v2 v3 37 37 74 rfl rfl hvs
      (by norm_num [List.map_cons, List.map_nil, List.sum_cons, List.sum_nil])
  obtain ⟨B3, R3, hU3, hB3, hR3⟩ :=
    streamT_decomp2 37 [(v0, 37), (v1, 37), (v2, 37), (v3, 37), (v4, 37), (v5, 37), (v6, 37), (v7, 37)] [(v0, 37), (v1, 37), (v2, 37)] [(v5, 37), (v6, 37), (v7, 37)] v3 v4 37 37 111 rfl rfl hvs
      (by norm_num [List.map_cons, List.map_nil, List.sum_cons, List.sum_nil])
  obtain ⟨B4, R4, hU4, hB4, hR4⟩ :=
    streamT_decomp2 37 [(v0, 37), (v1, 37), (v2, 37), (v3, 37), (v4, 37), (v5, 37), (v6, 37), (v7, 37)] [(v0, 37), (v1, 37), (v2, 37), (v3, 37)] [(v6, 37), (v7, 37)] v4 v5 37 37 148 rfl rfl hvs
      (by norm_num [List.map_cons, List.map_nil, List.sum_cons, List.sum_nil])
  obtain ⟨B5, R5, hU5, hB5, hR5⟩ :=
    streamT_decomp2 37 [(v0, 37), (v1, 37), (v2, 37), (v3, 37), (v4, 37), (v5, 37), (v6, 37), (v7, 37)] [(v0, 37), (v1, 37), (v2, 37), (v3, 37), (v4, 37)] [(v7, 37)] v5 v6 37 37 185 rfl rfl hvs
      (by norm_num [List.map_cons, List.map_nil, List.sum_cons, List.sum_nil])
  obtain ⟨B6, R6, hU6, hB6, hR6⟩ :=
    streamT_decomp2 37 [(v0, 37), (v1, 37), (v2, 37), (v3, 37), (v4, 37), (v5, 37), (v6, 37), (v7, 37)] [(v0, 37), (v1, 37), (v2, 37), (v3, 37), (v4, 37), (v5, 37)] [] v6 v7 37 37 222 rfl rfl hvs
      (by norm_num [List.map_cons, List.map_nil, List.sum_cons, List.sum_nil])
  rw [key, key2]
  simp only [List.cons.injEq]
  refine ⟨?_, ?_, ?_, ?_, ?_, ?_, ?_, ?_, ?_, ?_, ?_, ?_, ?_, ?_, ?_, ?_, ?_, ?_, ?_, ?_, ?_, ?_, ?_, ?_, ?_, ?_, ?_, ?_, ?_, ?_, ?_, ?_, ?_, ?_, ?_, ?_, ?_, trivial⟩
  · rw [hT0]
    exact byteSpec_mid 37 A0 v0 S0 (8 * 37 - 0 - 37) 37 0 29 hA0 hS0
      (by norm_num) (by norm_num)
  · rw [hT0]
    exact byteSpec_mid 37 A0 v0 S0 (8 * 37 - 0 - 37) 37 1 21 hA0 hS0
      (by norm_num) (by norm_num)
  · rw [hT0]
    exact byteSpec_mid 37 A0 v0 S0 (8 * 37 - 0 - 37) 37 2 13 hA0 hS0
      (by norm_num) (by norm_num)
  · rw [hT0]
    exact byteSpec_mid 37 A0 v0 S0 (8 * 37 - 0 - 37) 37 3 5 hA0 hS0
      (by norm_num) (by norm_num)
  · rw [hU0]
    exact byteSpec_bnd 37 B0 v0 v1 R0 (8 * 37 - 0 - 37 - 37) 4 5 3 34 31 7 37 hB0 hv0 hv1 hR0
      (by norm_num) (by norm_num) (by norm_num) (by norm_num) (by norm_num)
  · rw [hT1]
    exact byteSpec_mid 37 A1 v1 S1 (8 * 37 - 37 - 37) 37 5 26 hA1 hS1
      (by norm_num) (by norm_num)
  · rw [hT1]
    exact byteSpec_mid 37 A1 v1 S1 (8 * 37 - 37 - 37) 37 6 18 hA1 hS1
      (by norm_num) (by norm_num)
  · rw [hT1]
    exact byteSpec_mid 37 A1 v1 S1 (8 * 37 - 37 - 37) 37 7 10 hA1 hS1
      (by norm_num) (by norm_num)
  · rw [hT1]
    exact byteSpec_mid 37 A1 v1 S1 (8 * 37 - 37 - 37) 37 8 2 hA1 hS1
      (by norm_num) (by norm_num)
  · rw [hU1]
    exact byteSpec_bnd 37 B1 v1 v2 R1 (8 * 37 - 37 - 37 - 37) 9 2 6 31 3 63 37 hB1 hv1 hv2 hR1
      (by norm_num) (by norm_num) (by norm_num) (by norm_num) (by norm_num)
  · rw [hT2]
    exact byteSpec_mid 37 A2 v2 S2 (8 * 37 - 74 - 37) 37 10 23 hA2 hS2
      (by norm_num) (by norm_num)
  · rw [hT2]
    exact byteSpec_mid 37 A2 v2 S2 (8 * 37 - 74 - 37) 37 11 15 hA2 hS2
      (by norm_num) (by norm_num)
  · rw [hT2]
    exact byteSpec_mid 37 A2 v2 S2 (8 * 37 - 74 - 37) 37 12 7 hA2 hS2
      (by norm_num) (by norm_num)
  · rw [hU2]
    exact byteSpec_bnd 37 B2 v2 v3 R2 (8 * 37 - 74 - 37 - 37) 13 7 1 36 127 1 37 hB2 hv2 hv3 hR2
      (by norm_num) (by norm_num) (by norm_num) (by norm_num) (by norm_num)
  · rw [hT3]
    exact byteSpec_mid 37 A3 v3 S3 (8 * 37 - 111 - 37) 37 14 28 hA3 hS3
      (by norm_num) (by norm_num)
  · rw [hT3]
    exact byteSpec_mid 37 A3 v3 S3 (8 * 37 - 111 - 37) 37 15 20 hA3 hS3
      (by norm_num) (by norm_num)
  · rw [hT3]
    exact byteSpec_mid 37 A3 v3 S3 (8 * 37 - 111 - 37) 37 16 12 hA3 hS3
      (by norm_num) (by norm_num)
  · rw [hT3]
    exact byteSpec_mid 37 A3 v3 S3 (8 * 37 - 111 - 37) 37 17 4 hA3 hS3
      (by norm_num) (by norm_num)
  · rw [hU3]
    exact byteSpec_bnd 37 B3 v3 v4 R3 (8 * 37 - 111 - 37 - 37) 18 4 4 33 15 15 37 hB3 hv3 hv4 hR3
      (by norm_num) (by norm_num) (by norm_num) (by norm_num) (by norm_num)
  · rw [hT4]
    exact byteSpec_mid 37 A4 v4 S4 (8 * 37 - 148 - 37) 37 19 25 hA4 hS4
      (by norm_num) (by norm_num)
  · rw [hT4]
    exact byteSpec_mid 37 A4 v4 S4 (8 * 37 - 148 - 37) 37 20 17 hA4 hS4
      (by norm_num) (by norm_num)
  · rw [hT4]
    exact byteSpec_mid 37 A4 v4 S4 (8 * 37 - 148 - 37) 37 21 9 hA4 hS4
      (by norm_num) (by norm_num)
  · rw [hT4]
    exact byteSpec_mid 37 A4 v4 S4 (8 * 37 - 148 - 37) 37 22 1 hA4 hS4
      (by norm_num) (by norm_num)
  · rw [hU4]
    exact byteSpec_bnd 37 B4 v4 v5 R4 (8 * 37 - 148 - 37 - 37) 23 1 7 30 1 127 37 hB4 hv4 hv5 hR4
      (by norm_num) (by norm_num) (by norm_num) (by norm_num) (by norm_num)
  · rw [hT5]
    exact byteSpec_mid 37 A5 v5 S5 (8 * 37 - 185 - 37) 37 24 22 hA5 hS5
      (by norm_num) (by norm_num)
  · rw [hT5]
    exact byteSpec_mid 37 A5 v5 S5 (8 * 37 - 185 - 37) 37 25 14 hA5 hS5
      (by norm_num) (by norm_num)
  · rw [hT5]
    exact byteSpec_mid 37 A5 v5 S5 (8 * 37 - 185 - 37) 37 26 6 hA5 hS5
      (by norm_num) (by norm_num)
  · rw [hU5]
    exact byteSpec_bnd 37 B5 v5 v6 R5 (8 * 37 - 185 - 37 - 37) 27 6 2 35 63 3 37 hB5 hv5 hv6 hR5
      (by norm_num) (by norm_num) (by norm_num) (by norm_num) (by norm_num)
  · rw [hT6]
    exact byteSpec_mid 37 A6 v6 S6 (8 * 37 - 222 - 37) 37 28 27 hA6 hS6
      (by norm_num) (by norm_num)
  · rw [hT6]
    exact byteSpec_mid 37 A6 v6 S6 (8 * 37 - 222 - 37) 37 29 19 hA6 hS6
      (by norm_num) (by norm_num)
  · rw [hT6]
    exact byteSpec_mid 37 A6 v6 S6 (8 * 37 - 222 - 37) 37 30 11 hA6 hS6
      (by norm_num) (by norm_num)
  · rw [hT6]
    exact byteSpec_mid 37 A6 v6 S6 (8 * 37 - 222 - 37) 37 31 3 hA6 hS6
      (by norm_num) (by norm_num)
  · rw [hU6]
    exact byteSpec_bnd 37 B6 v6 v7 R6 (8 * 37 - 222 - 37 - 37) 32 3 5 32 7 31 37 hB6 hv6 hv7 hR6
      (by norm_num) (by norm_num) (by norm_num) (by norm_num) (by norm_num)
  · rw [hT7]
    exact byteSpec_mid 37 A7 v7 S7 (8 * 37 - 259 - 37) 37 33 24 hA7 hS7
      (by norm_num) (by norm_num)
  · rw [hT7]
    exact byteSpec_mid 37 A7 v7 S7 (8 * 37 - 259 - 37) 37 34 16 hA7 hS7
      (by norm_num) (by norm_num)
  · rw [hT7]
    exact byteSpec_mid 37 A7 v7 S7 (8 * 37 - 259 - 37) 37 35 8 hA7 hS7
      (by norm_num) (by norm_num)
  · rw [hT7]
    exact byteSpec_mid0 37 A7 v7 S7 (8 * 37 - 259 - 37) 37 36 hA7 hS7
      (by norm_num) (by norm_num)

set_option maxRecDepth 16000 in
set_option maxHeartbeats 1000000 in
theorem c5_pack_eq_38 (v0 v1 v2 v3 v4 v5 v6 v7 : Nat) (hv0 : v0 < 2 ^ 38) (hv1 : v1 < 2 ^ 38) (hv2 : v2 < 2 ^ 38) (hv3 : v3 < 2 ^ 38) (hv4 : v4 < 2 ^ 38) (hv5 : v5 < 2 ^ 38) (hv6 : v6 < 2 ^ 38) (hv7 : v7 < 2 ^ 38) :
    (packSeq (BitPacker.new (List.replicate 38 0)) [(v0, 38), (v1, 38), (v2, 38), (v3, 38), (v4, 38), (v5, 38), (v6, 38), (v7, 38)]).bytes
      = pack_bits_38 v0 v1 v2 v3 v4 v5 v6 v7 := by
  have hvs : ∀ p ∈ ([(v0, 38), (v1, 38), (v2, 38), (v3, 38), (v4, 38), (v5, 38), (v6, 38), (v7, 38)] : List (Nat × Nat)), p.1 < 2 ^ p.2 := by
    intro p hp
    simp only [List.mem_cons, List.not_mem_nil, or_false] at hp
    rcases hp with rfl | rfl | rfl | rfl | rfl | rfl | rfl | rfl
    exacts [hv0, hv1, hv2, hv3, hv4, hv5, hv6, hv7]
  obtain ⟨-, -, -, ⟨hlen, hbytes⟩, -, -⟩ :=
    packSeq_inv 38 [(v0, 38), (v1, 38), (v2, 38), (v3, 38), (v4, 38), (v5, 38), (v6, 38), (v7, 38)] 0 0 _ hvs
      (by norm_num [List.map_cons, List.map_nil, List.sum_cons, List.sum_nil]) (packInv_init 38)
  have key : (packSeq (BitPacker.new (List.replicate 38 0)) [(v0, 38), (v1, 38), (v2, 38), (v3, 38), (v4, 38), (v5, 38), (v6, 38), (v7, 38)]).bytes
      = [ ByteSpec 38 (streamT 38 [(v0, 38), (v1, 38), (v2, 38), (v3, 38), (v4, 38), (v5, 38), (v6, 38), (v7, 38)] 0 0) 0,
          ByteSpec 38 (streamT 38 [(v0, 38), (v1, 38), (v2, 38), (v3, 38), (v4, 38), (v5, 38), (v6, 38), (v7, 38)] 0 0) 1,
          ByteSpec 38 (streamT 38 [(v0, 38), (v1, 38), (v2, 38), (v3, 38), (v4, 38), (v5, 38), (v6, 38), (v7, 38)] 0 0) 2,
          ByteSpec 38 (streamT 38 [(v0, 38), (v1, 38), (v2, 38), (v3, 38), (v4, 38), (v5, 38), (v6, 38), (v7, 38)] 0 0) 3,
          ByteSpec 38 (streamT 38 [(v0, 38), (v1, 38), (v2, 38), (v3, 38), (v4, 38), (v5, 38), (v6, 38), (v7, 38)] 0 0) 4,
          ByteSpec 38 (streamT 38 [(v0, 38), (v1, 38), (v2, 38), (v3, 38), (v4, 38), (v5, 38), (v6, 38), (v7, 38)] 0 0) 5,
          ByteSpec 38 (streamT 38 [(v0, 38), (v1, 38), (v2, 38), (v3, 38), (v4, 38), (v5, 38), (v6, 38), (v7, 38)] 0 0) 6,
          ByteSpec 38 (streamT 38 [(v0, 38), (v1, 38), (v2, 38), (v3, 38), (v4, 38), (v5, 38), (v6, 38), (v7, 38)] 0 0) 7,
          ByteSpec 38 (streamT 38 [(v0, 38), (v1, 38), (v2, 38), (v3, 38), (v4, 38), (v5, 38), (v6, 38), (v7, 38)] 0 0) 8,
          ByteSpec 38 (streamT 38 [(v0, 38), (v1, 38), (v2, 38), (v3, 38), (v4, 38), (v5, 38), (v6, 38), (v7, 38)] 0 0) 9,
          ByteSpec 38 (streamT 38 [(v0, 38), (v1, 38), (v2, 38), (v3, 38), (v4, 38), (v5, 38), (v6, 38), (v7, 38)] 0 0) 10,
          ByteSpec 38 (streamT 38 [(v0, 38), (v1, 38), (v2, 38), (v3, 38), (v4, 38), (v5, 38), (v6, 38), (v7, 38)] 0 0) 11,
          ByteSpec 38 (streamT 38 [(v0, 38), (v1, 38), (v2, 38), (v3, 38), (v4, 38), (v5, 38), (v6, 38), (v7, 38)] 0 0) 12,
          ByteSpec 38 (streamT 38 [(v0, 38), (v1, 38), (v2, 38), (v3, 38), (v4, 38), (v5, 38), (v6, 38), (v7, 38)] 0 0) 13,
          ByteSpec 38 (streamT 38 [(v0, 38), (v1, 38), (v2, 38), (v3, 38), (v4, 38), (v5, 38), (v6, 38), (v7, 38)] 0 0) 14,
          ByteSpec 38 (streamT 38 [(v0, 38), (v1, 38), (v2, 38), (v3, 38), (v4, 38), (v5, 38), (v6, 38), (v7, 38)] 0 0) 15,
          ByteSpec 38 (streamT 38 [(v0, 38), (v1, 38), (v2, 38), (v3, 38), (v4, 38), (v5, 38), (v6, 38), (v7, 38)] 0 0) 16,
          ByteSpec 38 (streamT 38 [(v0, 38), (v1, 38), (v2, 38), (v3, 38), (v4, 38), (v5, 38), (v6, 38), (v7, 38)] 0 0) 17,
          ByteSpec 38 (streamT 38 [(v0, 38), (v1, 38), (v2, 38), (v3, 38), (v4, 38), (v5, 38), (v6, 38), (v7, 38)] 0 0) 18,
          ByteSpec 38 (streamT 38 [(v0, 38), (v1, 38), (v2, 38), (v3, 38), (v4, 38), (v5, 38), (v6, 38), (v7, 38)] 0 0) 19,
          ByteSpec 38 (streamT 38 [(v0, 38), (v1, 38), (v2, 38), (v3, 38), (v4, 38), (v5, 38), (v6, 38), (v7, 38)] 0 0) 20,
          ByteSpec 38 (streamT 38 [(v0, 38), (v1, 38), (v2, 38), (v3, 38), (v4, 38), (v5, 38), (v6, 38), (v7, 38)] 0 0) 21,
          ByteSpec 38 (streamT 38 [(v0, 38), (v1, 38), (v2, 38), (v3, 38), (v4, 38), (v5, 38), (v6, 38), (v7, 38)] 0 0) 22,
          ByteSpec 38 (streamT 38 [(v0, 38), (v1, 38), (v2, 38), (v3, 38), (v4, 38), (v5, 38), (v6, 38), (v7, 38)] 0 0) 23,
          ByteSpec 38 (streamT 38 [(v0, 38), (v1, 38), (v2, 38), (v3, 38), (v4, 38), (v5, 38), (v6, 38), (v7, 38)] 0 0) 24,
          ByteSpec 38 (streamT 38 [(v0, 38), (v1, 38), (v2, 38), (v3, 38), (v4, 38), (v5, 38), (v6, 38), (v7, 38)] 0 0) 25,
          ByteSpec 38 (streamT 38 [(v0, 38), (v1, 38), (v2, 38), (v3, 38), (v4, 38), (v5, 38), (v6, 38), (v7, 38)] 0 0) 26,
          ByteSpec 38 (streamT 38 [(v0, 38), (v1, 38), (v2, 38), (v3, 38), (v4, 38), (v5, 38), (v6, 38), (v7, 38)] 0 0) 27,
          ByteSpec 38 (streamT 38 [(v0, 38), (v1, 38), (v2, 38), (v3, 38), (v4, 38), (v5, 38), (v6, 38), (v7, 38)] 0 0) 28,
          ByteSpec 38 (streamT 38 [(v0, 38), (v1, 38), (v2, 38), (v3, 38), (v4, 38), (v5, 38), (v6, 38), (v7, 38)] 0 0) 29,
          ByteSpec 38 (streamT 38 [(v0, 38), (v1, 38), (v2, 38), (v3, 38), (v4, 38), (v5, 38), (v6, 38), (v7, 38)] 0 0) 30,
          ByteSpec 38 (streamT 38 [(v0, 38), (v1, 38), (v2, 38), (v3, 38), (v4, 38), (v5, 38), (v6, 38), (v7, 38)] 0 0) 31,
          ByteSpec 38 (streamT 38 [(v0, 38), (v1, 38), (v2, 38), (v3, 38), (v4, 38), (v5, 38), (v6, 38), (v7, 38)] 0 0) 32,
          ByteSpec 38 (streamT 38 [(v0, 38), (v1, 38), (v2, 38), (v3, 38), (v4, 38), (v5, 38), (v6, 38), (v7, 38)] 0 0) 33,
          ByteSpec 38 (streamT 38 [(v0, 38), (v1, 38), (v2, 38), (v3, 38), (v4, 38), (v5, 38), (v6, 38), (v7, 38)] 0 0) 34,
          ByteSpec 38 (streamT 38 [(v0, 38), (v1, 38), (v2, 38), (v3, 38), (v4, 38), (v5, 38), (v6, 38), (v7, 38)] 0 0) 35,
          ByteSpec 38 (streamT 38 [(v0, 38), (v1, 38), (v2, 38), (v3, 38), (v4, 38), (v5, 38), (v6, 38), (v7, 38)] 0 0) 36,
          ByteSpec 38 (streamT 38 [(v0, 38), (v1, 38), (v2, 38), (v3, 38), (v4, 38), (v5, 38), (v6, 38), (v7, 38)] 0 0) 37 ] :=
    (list_eq_map_range_of_getD _ _ 38 hlen hbytes).trans (by rfl)
  have key2 : pack_bits_38 v0 v1 v2 v3 v4 v5 v6 v7
      = [ u8 (((v0 >>> 30) &&& 0xff)),
          u8 (((v0 >>> 22) &&& 0xff)),
          u8 (((v0 >>> 14) &&& 0xff)),
          u8 (((v0 >>> 6) &&& 0xff)),
          u8 (((((v0) &&& 0x3f) <<< 2) ||| ((v1 >>> 36) &&& 0x3))),
          u8 (((v1 >>> 28) &&& 0xff)),
          u8 (((v1 >>> 20) &&& 0xff)),
          u8 (((v1 >>> 12) &&& 0xff)),
          u8 (((v1 >>> 4) &&& 0xff)),
          u8 (((((v1) &&& 0xf) <<< 4) ||| ((v2 >>> 34) &&& 0xf))),
          u8 (((v2 >>> 26) &&& 0xff)),
          u8 (((v2 >>> 18) &&& 0xff)),
          u8 (((v2 >>> 10) &&& 0xff)),
          u8 (((v2 >>> 2) &&& 0xff)),
          u8 (((((v2) &&& 0x3) <<< 6) ||| ((v3 >>> 32) &&& 0x3f))),
          u8 (((v3 >>> 24) &&& 0xff)),
          u8 (((v3 >>> 16) &&& 0xff)),
          u8 (((v3 >>> 8) &&& 0xff)),
          u8 (((v3) &&& 0xff)),
          u8 (((v4 >>> 30) &&& 0xff)),
          u8 (((v4 >>> 22) &&& 0xff)),
          u8 (((v4 >>> 14) &&& 0xff)),
          u8 (((v4 >>> 6) &&& 0xff)),
          u8 (((((v4) &&& 0x3f) <<< 2) ||| ((v5 >>> 36) &&& 0x3))),
          u8 (((v5 >>> 28) &&& 0xff)),
          u8 (((v5 >>> 20) &&& 0xff)),
          u8 (((v5 >>> 12) &&& 0xff)),
          u8 (((v5 >>> 4) &&& 0xff)),
          u8 (((((v5) &&& 0xf) <<< 4) ||| ((v6 >>> 34) &&& 0xf))),
          u8 (((v6 >>> 26) &&& 0xff)),
          u8 (((v6 >>> 18) &&& 0xff)),
          u8 (((v6 >>> 10) &&& 0xff)),
          u8 (((v6 >>> 2) &&& 0xff)),
          u8 (((((v6) &&& 0x3) <<< 6) ||| ((v7 >>> 32) &&& 0x3f))),
          u8 (((v7 >>> 24) &&& 0xff)),
          u8 (((v7 >>> 16) &&& 0xff)),
          u8 (((v7 >>> 8) &&& 0xff)),
          u8 (((v7) &&& 0xff)) ] := rfl
  obtain ⟨A0, S0, hT0, hA0, hS0⟩ :=
    streamT_decomp 38 [(v0, 38), (v1, 38), (v2, 38), (v3, 38), (v4, 38), (v5, 38), (v6, 38), (v7, 38)] [] [(v1, 38), (v2, 38), (v3, 38), (v4, 38), (v5, 38), (v6, 38), (v7, 38)] v0 38 0 rfl rfl hvs
      (by norm_num [List.map_cons, List.map_nil, List.sum_cons, List.sum_nil])
  obtain ⟨A1, S1, hT1, hA1, hS1⟩ :=
    streamT_decomp 38 [(v0, 38), (v1, 38), (v2, 38), (v3, 38), (v4, 38), (v5, 38), (v6, 38), (v7, 38)] [(v0, 38)] [(v2, 38), (v3, 38), (v4, 38), (v5, 38), (v6, 38), (v7, 38)] v1 38 38 rfl rfl hvs
      (by norm_num [List.map_cons, List.map_nil, List.sum_cons, List.sum_nil])
  obtain ⟨A2, S2, hT2, hA2, hS2⟩ :=
    streamT_decomp 38 [(v0, 38), (v1, 38), (v2, 38), (v3, 38), (v4, 38), (v5, 38), (v6, 38), (v7, 38)] [(v0, 38), (v1, 38)] [(v3, 38), (v4, 38), (v5, 38), (v6, 38), (v7, 38)] v2 38 76 rfl rfl hvs
      (by norm_num [List.map_cons, List.map_nil, List.sum_cons, List.sum_nil])
  obtain ⟨A3, S3, hT3, hA3, hS3⟩ :=
    streamT_decomp 38 [(v0, 38), (v1, 38), (v2, 38), (v3, 38), (v4, 38), (v5, 38), (v6, 38), (v7, 38)] [(v0, 38), (v1, 38), (v2, 38)] [(v4, 38), (v5, 38), (v6, 38), (v7, 38)] v3 38 114 rfl rfl hvs
      (by norm_num [List.map_cons, List.map_nil, List.sum_cons, List.sum_nil])
  obtain ⟨A4, S4, hT4, hA4, hS4⟩ :=
    streamT_decomp 38 [(v0, 38), (v1, 38), (v2, 38), (v3, 38), (v4, 38), (v5, 38), (v6, 38), (v7, 38)] [(v0, 38), (v1, 38), (v2, 38), (v3, 38)] [(v5, 38), (v6, 38), (v7, 38)] v4 38 152 rfl rfl hvs
      (by norm_num [List.map_cons, List.map_nil, List.sum_cons, List.sum_nil])
  obtain ⟨A5, S5, hT5, hA5, hS5⟩ :=
    streamT_decomp 38 [(v0, 38), (v1, 38), (v2, 38), (v3, 38), (v4, 38), (v5, 38), (v6, 38), (v7, 38)] [(v0, 38), (v1, 38), (v2, 38), (v3, 38), (v4, 38)] [(v6, 38), (v7, 38)] v5 38 190 rfl rfl hvs
      (by norm_num [List.map_cons, List.map_nil, List.sum_cons, List.sum_nil])
  obtain ⟨A6, S6, hT6, hA6, hS6⟩ :=
    streamT_decomp 38 [(v0, 38), (v1, 38), (v2, 38), (v3, 38), (v4, 38), (v5, 38), (v6, 38), (v7, 38)] [(v0, 38), (v1, 38), (v2, 38), (v3, 38), (v4, 38), (v5, 38)] [(v7, 38)] v6 38 228 rfl rfl hvs
      (by norm_num [List.map_cons, List.map_nil, List.sum_cons, List.sum_nil])
  obtain ⟨A7, S7, hT7, hA7, hS7⟩ :=
    streamT_decomp 38 [(v0, 38), (v1, 38), (v2, 38), (v3, 38), (v4, 38), (v5, 38), (v6, 38), (v7, 38)] [(v0, 38), (v1, 38), (v2, 38), (v3, 38), (v4, 38), (v5, 38), (v6, 38)] [] v7 38 266 rfl rfl hvs
      (by norm_num [List.map_cons, List.map_nil, List.sum_cons, List.sum_nil])
  obtain ⟨B0, R0, hU0, hB0, hR0⟩ :=
    streamT_decomp2 38 [(v0, 38), (v1, 38), (v2, 38), (v3, 38), (v4, 38), (v5, 38), (v6, 38), (v7, 38)] [] [(v2, 38), (v3, 38), (v4, 38), (v5, 38), (v6, 38), (v7, 38)] v0 v1 38 38 0 rfl rfl hvs
      (by norm_num [List.map_cons, List.map_nil, List.sum_cons, List.sum_nil])
  obtain ⟨B1, R1, hU1, hB1, hR1⟩ :=
    streamT_decomp2 38 [(v0, 38), (v1, 38), (v2, 38), (v3, 38), (v4, 38), (v5, 38), (v6, 38), (v7, 38)] [(v0, 38)] [(v3, 38), (v4, 38), (v5, 38), (v6, 38), (v7, 38)] v1 v2 38 38 38 rfl rfl hvs
      (by norm_num [List.map_cons, List.map_nil, List.sum_cons, List.sum_nil])
  obtain ⟨B2, R2, hU2, hB2, hR2⟩ :=
    streamT_decomp2 38 [(v0, 38), (v1, 38), (v2, 38), (v3, 38), (v4, 38), (v5, 38), (v6, 38), (v7, 38)] [(v0, 38), (v1, 38)] [(v4, 38), (v5, 38), (v6, 38), (v7, 38)] v2 v3 38 38 76 rfl rfl hvs
      (by norm_num [List.map_cons, List.map_nil, List.sum_cons, List.sum_nil])
  obtain ⟨B4, R4, hU4, hB4, hR4⟩ :=
    streamT_decomp2 38 [(v0, 38), (v1, 38), (v2, 38), (v3, 38), (v4, 38), (v5, 38), (v6, 38), (v7, 38)] [(v0, 38), (v1, 38), (v2, 38), (v3, 38)] [(v6, 38), (v7, 38)] v4 v5 38 38 152 rfl rfl hvs
      (by norm_num [List.map_cons, List.map_nil, List.sum_cons, List.sum_nil])
  obtain ⟨B5, R5, hU5, hB5, hR5⟩ :=
    streamT_decomp2 38 [(v0, 38), (v1, 38), (v2, 38), (v3, 38), (v4, 38), (v5, 38), (v6, 38), (v7, 38)] [(v0, 38), (v1, 38), (v2, 38), (v3, 38), (v4, 38)] [(v7, 38)] v5 v6 38 38 190 rfl rfl hvs
      (by norm_num [List.map_cons, List.map_nil, List.sum_cons, List.sum_nil])
  obtain ⟨B6, R6, hU6, hB6, hR6⟩ :=
    streamT_decomp2 38 [(v0, 38), (v1, 38), (v2, 38), (v3, 38), (v4, 38), (v5, 38), (v6, 38), (v7, 38)] [(v0, 38), (v1, 38), (v2, 38), (v3, 38), (v4, 38), (v5, 38)] [] v6 v7 38 38 228 rfl rfl hvs
      (by norm_num [List.map_cons, List.map_nil, List.sum_cons, List.sum_nil])
  rw [key, key2]
  simp only [List.cons.injEq]
  refine ⟨?_, ?_, ?_, ?_, ?_, ?_, ?_, ?_, ?_, ?_, ?_, ?_, ?_, ?_, ?_, ?_, ?_, ?_, ?_, ?_, ?_, ?_, ?_, ?_, ?_, ?_, ?_, ?_, ?_, ?_, ?_, ?_, ?_, ?_, ?_, ?_, ?_, ?_, trivial⟩
  · rw [hT0]
    exact byteSpec_mid 38 A0 v0 S0 (8 * 38 - 0 - 38) 38 0 30 hA0 hS0
      (by norm_num) (by norm_num)
  · rw [hT0]
    exact byteSpec_mid 38 A0 v0 S0 (8 * 38 - 0 - 38) 38 1 22 hA0 hS0
      (by norm_num) (by norm_num)
  · rw [hT0]
    exact byteSpec_mid 38 A0 v0 S0 (8 * 38 - 0 - 38) 38 2 14 hA0 hS0
      (by norm_num) (by norm_num)
  · rw [hT0]
    exact byteSpec_mid 38 A0 v0 S0 (8 * 38 - 0 - 38) 38 3 6 hA0 hS0
      (by norm_num) (by norm_num)
  · rw [hU0]
    exact byteSpec_bnd 38 B0 v0 v1 R0 (8 * 38 - 0 - 38 - 38) 4 6 2 36 63 3 38 hB0 hv0 hv1 hR0
      (by norm_num) (by norm_num) (by norm_num) (by norm_num) (by norm_num)
  · rw [hT1]
    exact byteSpec_mid 38 A1 v1 S1 (8 * 38 - 38 - 38) 38 5 28 hA1 hS1
      (by norm_num) (by norm_num)
  · rw [hT1]
    exact byteSpec_mid 38 A1 v1 S1 (8 * 38 - 38 - 38) 38 6 20 hA1 hS1
      (by norm_num) (by norm_num)
  · rw [hT1]
    exact byteSpec_mid 38 A1 v1 S1 (8 * 38 - 38 - 38) 38 7 12 hA1 hS1
      (by norm_num) (by norm_num)
  · rw [hT1]
    exact byteSpec_mid 38 A1 v1 S1 (8 * 38 - 38 - 38) 38 8 4 hA1 hS1
      (by norm_num) (by norm_num)
  · rw [hU1]
    exact byteSpec_bnd 38 B1 v1 v2 R1 (8 * 38 - 38 - 38 - 38) 9 4 4 34 15 15 38 hB1 hv1 hv2 hR1
      (by norm_num) (by norm_num) (by norm_num) (by norm_num) (by norm_num)
  · rw [hT2]
    exact byteSpec_mid 38 A2 v2 S2 (8 * 38 - 76 - 38) 38 10 26 hA2 hS2
      (by norm_num) (by norm_num)
  · rw [hT2]
    exact byteSpec_mid 38 A2 v2 S2 (8 * 38 - 76 - 38) 38 11 18 hA2 hS2
      (by norm_num) (by norm_num)
  · rw [hT2]
    exact byteSpec_mid 38 A2 v2 S2 (8 * 38 - 76 - 38) 38 12 10 hA2 hS2
      (by norm_num) (by norm_num)
  · rw [hT2]
    exact byteSpec_mid 38 A2 v2 S2 (8 * 38 - 76 - 38) 38 13 2 hA2 hS2
      (by norm_num) (by norm_num)
  · rw [hU2]
    exact byteSpec_bnd 38 B2 v2 v3 R2 (8 * 38 - 76 - 38 - 38) 14 2 6 32 3 63 38 hB2 hv2 hv3 hR2
      (by norm_num) (by norm_num) (by norm_num) (by norm_num) (by norm_num)
  · rw [hT3]
    exact byteSpec_mid 38 A3 v3 S3 (8 * 38 - 114 - 38) 38 15 24 hA3 hS3
      (by norm_num) (by norm_num)
  · rw [hT3]
    exact byteSpec_mid 38 A3 v3 S3 (8 * 38 - 114 - 38) 38 16 16 hA3 hS3
      (by norm_num) (by norm_num)
  · rw [hT3]
    exact byteSpec_mid 38 A3 v3 S3 (8 * 38 - 114 - 38) 38 17 8 hA3 hS3
      (by norm_num) (by norm_num)
  · rw [hT3]
    exact byteSpec_mid0 38 A3 v3 S3 (8 * 38 - 114 - 38) 38 18 hA3 hS3
      (by norm_num) (by norm_num)
  · rw [hT4]
    exact byteSpec_mid 38 A4 v4 S4 (8 * 38 - 152 - 38) 38 19 30 hA4 hS4
      (by norm_num) (by norm_num)
  · rw [hT4]
    exact byteSpec_mid 38 A4 v4 S4 (8 * 38 - 152 - 38) 38 20 22 hA4 hS4
      (by norm_num) (by norm_num)
  · rw [hT4]
    exact byteSpec_mid 38 A4 v4 S4 (8 * 38 - 152 - 38) 38 21 14 hA4 hS4
      (by norm_num) (by norm_num)
  · rw [hT4]
    exact byteSpec_mid 38 A4 v4 S4 (8 * 38 - 152 - 38) 38 22 6 hA4 hS4
      (by norm_num) (by norm_num)
  · rw [hU4]
    exact byteSpec_bnd 38 B4 v4 v5 R4 (8 * 38 - 152 - 38 - 38) 23 6 2 36 63 3 38 hB4 hv4 hv5 hR4
      (by norm_num) (by norm_num) (by norm_num) (by norm_num) (by norm_num)
  · rw [hT5]
    exact byteSpec_mid 38 A5 v5 S5 (8 * 38 - 190 - 38) 38 24 28 hA5 hS5
      (by norm_num) (by norm_num)
  · rw [hT5]
    exact byteSpec_mid 38 A5 v5 S5 (8 * 38 - 190 - 38) 38 25 20 hA5 hS5
      (by norm_num) (by norm_num)
  · rw [hT5]
    exact byteSpec_mid 38 A5 v5 S5 (8 * 38 - 190 - 38) 38 26 12 hA5 hS5
      (by norm_num) (by norm_num)
  · rw [hT5]
    exact byteSpec_mid 38 A5 v5 S5 (8 * 38 - 190 - 38) 38 27 4 hA5 hS5
      (by norm_num) (by norm_num)
  · rw [hU5]
    exact byteSpec_bnd 38 B5 v5 v6 R5 (8 * 38 - 190 - 38 - 38) 28 4 4 34 15 15 38 hB5 hv5 hv6 hR5
      (by norm_num) (by norm_num) (by norm_num) (by norm_num) (by norm_num)
  · rw [hT6]
    exact byteSpec_mid 38 A6 v6 S6 (8 * 38 - 228 - 38) 38 29 26 hA6 hS6
      (by norm_num) (by norm_num)
  · rw [hT6]
    exact byteSpec_mid 38 A6 v6 S6 (8 * 38 - 228 - 38) 38 30 18 hA6 hS6
      (by norm_num) (by norm_num)
  · rw [hT6]
    exact byteSpec_mid 38 A6 v6 S6 (8 * 38 - 228 - 38) 38 31 10 hA6 hS6
      (by norm_num) (by norm_num)
  · rw [hT6]
    exact byteSpec_mid 38 A6 v6 S6 (8 * 38 - 228 - 38) 38 32 2 hA6 hS6
      (by norm_num) (by norm_num)
  · rw [hU6]
    exact byteSpec_bnd 38 B6 v6 v7 R6 (8 * 38 - 228 - 38 - 38) 33 2 6 32 3 63 38 hB6 hv6 hv7 hR6
      (by norm_num) (by norm_num) (by norm_num) (by norm_num) (by norm_num)
  · rw [hT7]
    exact byteSpec_mid 38 A7 v7 S7 (8 * 38 - 266 - 38) 38 34 24 hA7 hS7
      (by norm_num) (by norm_num)
  · rw [hT7]
    exact byteSpec_mid 38 A7 v7 S7 (8 * 38 - 266 - 38) 38 35 16 hA7 hS7
      (by norm_num) (by norm_num)
  · rw [hT7]
    exact byteSpec_mid 38 A7 v7 S7 (8 * 38 - 266 - 38) 38 36 8 hA7 hS7
      (by norm_num) (by norm_num)
  · rw [hT7]
    exact byteSpec_mid0 38 A7 v7 S7 (8 * 38 - 266 - 38) 38 37 hA7 hS7
      (by norm_num) (by norm_num)

set_option maxRecDepth 16000 in
set_option maxHeartbeats 1000000 in
theorem c5_pack_eq_39 (v0 v1 v2 v3 v4 v5 v6 v7 : Nat) (hv0 : v0 < 2 ^ 39) (hv1 : v1 < 2 ^ 39) (hv2 : v2 < 2 ^ 39) (hv3 : v3 < 2 ^ 39) (hv4 : v4 < 2 ^ 39) (hv5 : v5 < 2 ^ 39) (hv6 : v6 < 2 ^ 39) (hv7 : v7 < 2 ^ 39) :
    (packSeq (BitPacker.new (List.replicate 39 0)) [(v0, 39), (v1, 39), (v2, 39), (v3, 39), (v4, 39), (v5, 39), (v6, 39), (v7, 39)]).bytes
      = pack_bits_39 v0 v1 v2 v3 v4 v5 v6 v7 := by
  have hvs : ∀ p ∈ ([(v0, 39), (v1, 39), (v2, 39), (v3, 39), (v4, 39), (v5, 39), (v6, 39), (v7, 39)] : List (Nat × Nat)), p.1 < 2 ^ p.2 := by
    intro p hp
    simp only [List.mem_cons, List.not_mem_nil, or_false] at hp
    rcases hp with rfl | rfl | rfl | rfl | rfl | rfl | rfl | rfl
    exacts [hv0, hv1, hv2, hv3, hv4, hv5, hv6, hv7]
  obtain ⟨-, -, -, ⟨hlen, hbytes⟩, -, -⟩ :=
    packSeq_inv 39 [(v0, 39), (v1, 39), (v2, 39), (v3, 39), (v4, 39), (v5, 39), (v6, 39), (v7, 39)] 0 0 _ hvs
      (by norm_num [List.map_cons, List.map_nil, List.sum_cons, List.sum_nil]) (packInv_init 39)
  have key : (packSeq (BitPacker.new (List.replicate 39 0)) [(v0, 39), (v1, 39), (v2, 39), (v3, 39), (v4, 39), (v5, 39), (v6, 39), (v7, 39)]).bytes
      = [ ByteSpec 39 (streamT 39 [(v0, 39), (v1, 39), (v2, 39), (v3, 39), (v4, 39), (v5, 39), (v6, 39), (v7, 39)] 0 0) 0,
          ByteSpec 39 (streamT 39 [(v0, 39), (v1, 39), (v2, 39), (v3, 39), (v4, 39), (v5, 39), (v6, 39), (v7, 39)] 0 0) 1,
          ByteSpec 39 (streamT 39 [(v0, 39), (v1, 39), (v2, 39), (v3, 39), (v4, 39), (v5, 39), (v6, 39), (v7, 39)] 0 0) 2,
          ByteSpec 39 (streamT 39 [(v0, 39), (v1, 39), (v2, 39), (v3, 39), (v4, 39), (v5, 39), (v6, 39), (v7, 39)] 0 0) 3,
          ByteSpec 39 (streamT 39 [(v0, 39), (v1, 39), (v2, 39), (v3, 39), (v4, 39), (v5, 39), (v6, 39), (v7, 39)] 0 0) 4,
          ByteSpec 39 (streamT 39 [(v0, 39), (v1, 39), (v2, 39), (v3, 39), (v4, 39), (v5, 39), (v6, 39), (v7, 39)] 0 0) 5,
          ByteSpec 39 (streamT 39 [(v0, 39), (v1, 39), (v2, 39), (v3, 39), (v4, 39), (v5, 39), (v6, 39), (v7, 39)] 0 0) 6,
          ByteSpec 39 (streamT 39 [(v0, 39), (v1, 39), (v2, 39), (v3, 39), (v4, 39), (v5, 39), (v6, 39), (v7, 39)] 0 0) 7,
          ByteSpec 39 (streamT 39 [(v0, 39), (v1, 39), (v2, 39), (v3, 39), (v4, 39), (v5, 39), (v6, 39), (v7, 39)] 0 0) 8,
          ByteSpec 39 (streamT 39 [(v0, 39), (v1, 39), (v2, 39), (v3, 39), (v4, 39), (v5, 39), (v6, 39), (v7, 39)] 0 0) 9,
          ByteSpec 39 (streamT 39 [(v0, 39), (v1, 39), (v2, 39), (v3, 39), (v4, 39), (v5, 39), (v6, 39), (v7, 39)] 0 0) 10,
          ByteSpec 39 (streamT 39 [(v0, 39), (v1, 39), (v2, 39), (v3, 39), (v4, 39), (v5, 39), (v6, 39), (v7, 39)] 0 0) 11,
          ByteSpec 39 (streamT 39 [(v0, 39), (v1, 39), (v2, 39), (v3, 39), (v4, 39), (v5, 39), (v6, 39), (v7, 39)] 0 0) 12,
          ByteSpec 39 (streamT 39 [(v0, 39), (v1, 39), (v2, 39), (v3, 39), (v4, 39), (v5, 39), (v6, 39), (v7, 39)] 0 0) 13,
          ByteSpec 39 (streamT 39 [(v0, 39), (v1, 39), (v2, 39), (v3, 39), (v4, 39), (v5, 39), (v6, 39), (v7, 39)] 0 0) 14,
          ByteSpec 39 (streamT 39 [(v0, 39), (v1, 39), (v2, 39), (v3, 39), (v4, 39), (v5, 39), (v6, 39), (v7, 39)] 0 0) 15,
          ByteSpec 39 (streamT 39 [(v0, 39), (v1, 39), (v2, 39), (v3, 39), (v4, 39), (v5, 39), (v6, 39), (v7, 39)] 0 0) 16,
          ByteSpec 39 (streamT 39 [(v0, 39), (v1, 39), (v2, 39), (v3, 39), (v4, 39), (v5, 39), (v6, 39), (v7, 39)] 0 0) 17,
          ByteSpec 39 (streamT 39 [(v0, 39), (v1, 39), (v2, 39), (v3, 39), (v4, 39), (v5, 39), (v6, 39), (v7, 39)] 0 0) 18,
          ByteSpec 39 (streamT 39 [(v0, 39), (v1, 39), (v2, 39), (v3, 39), (v4, 39), (v5, 39), (v6, 39), (v7, 39)] 0 0) 19,
          ByteSpec 39 (streamT 39 [(v0, 39), (v1, 39), (v2, 39), (v3, 39), (v4, 39), (v5, 39), (v6, 39), (v7, 39)] 0 0) 20,
          ByteSpec 39 (streamT 39 [(v0, 39), (v1, 39), (v2, 39), (v3, 39), (v4, 39), (v5, 39), (v6, 39), (v7, 39)] 0 0) 21,
          ByteSpec 39 (streamT 39 [(v0, 39), (v1, 39), (v2, 39), (v3, 39), (v4, 39), (v5, 39), (v6, 39), (v7, 39)] 0 0) 22,
          ByteSpec 39 (streamT 39 [(v0, 39), (v1, 39), (v2, 39), (v3, 39), (v4, 39), (v5, 39), (v6, 39), (v7, 39)] 0 0) 23,
          ByteSpec 39 (streamT 39 [(v0, 39), (v1, 39), (v2, 39), (v3, 39), (v4, 39), (v5, 39), (v6, 39), (v7, 39)] 0 0) 24,
          ByteSpec 39 (streamT 39 [(v0, 39), (v1, 39), (v2, 39), (v3, 39), (v4, 39), (v5, 39), (v6, 39), (v7, 39)] 0 0) 25,
          ByteSpec 39 (streamT 39 [(v0, 39), (v1, 39), (v2, 39), (v3, 39), (v4, 39), (v5, 39), (v6, 39), (v7, 39)] 0 0) 26,
          ByteSpec 39 (streamT 39 [(v0, 39), (v1, 39), (v2, 39), (v3, 39), (v4, 39), (v5, 39), (v6, 39), (v7, 39)] 0 0) 27,
          ByteSpec 39 (streamT 39 [(v0, 39), (v1, 39), (v2, 39), (v3, 39), (v4, 39), (v5, 39), (v6, 39), (v7, 39)] 0 0) 28,
          ByteSpec 39 (streamT 39 [(v0, 39), (v1, 39), (v2, 39), (v3, 39), (v4, 39), (v5, 39), (v6, 39), (v7, 39)] 0 0) 29,
          ByteSpec 39 (streamT 39 [(v0, 39), (v1, 39), (v2, 39), (v3, 39), (v4, 39), (v5, 39), (v6, 39), (v7, 39)] 0 0) 30,
          ByteSpec 39 (streamT 39 [(v0, 39), (v1, 39), (v2, 39), (v3, 39), (v4, 39), (v5, 39), (v6, 39), (v7, 39)] 0 0) 31,
          ByteSpec 39 (streamT 39 [(v0, 39), (v1, 39), (v2, 39), (v3, 39), (v4, 39), (v5, 39), (v6, 39), (v7, 39)] 0 0) 32,
          ByteSpec 39 (streamT 39 [(v0, 39), (v1, 39), (v2, 39), (v3, 39), (v4, 39), (v5, 39), (v6, 39), (v7, 39)] 0 0) 33,
          ByteSpec 39 (streamT 39 [(v0, 39), (v1, 39), (v2, 39), (v3, 39), (v4, 39), (v5, 39), (v6, 39), (v7, 39)] 0 0) 34,
          ByteSpec 39 (streamT 39 [(v0, 39), (v1, 39), (v2, 39), (v3, 39), (v4, 39), (v5, 39), (v6, 39), (v7, 39)] 0 0) 35,
          ByteSpec 39 (streamT 39 [(v0, 39), (v1, 39), (v2, 39), (v3, 39), (v4, 39), (v5, 39), (v6, 39), (v7, 39)] 0 0) 36,
          ByteSpec 39 (streamT 39 [(v0, 39), (v1, 39), (v2, 39), (v3, 39), (v4, 39), (v5, 39), (v6, 39), (v7, 39)] 0 0) 37,
          ByteSpec 39 (streamT 39 [(v0, 39), (v1, 39), (v2, 39), (v3, 39), (v4, 39), (v5, 39), (v6, 39), (v7, 39)] 0 0) 38 ] :=
    (list_eq_map_range_of_getD _ _ 39 hlen hbytes).trans (by rfl)
  have key2 : pack_bits_39 v0 v1 v2 v3 v4 v5 v6 v7
      = [ u8 (((v0 >>> 31) &&& 0xff)),
          u8 (((v0 >>> 23) &&& 0xff)),
          u8 (((v0 >>> 15) &&& 0xff)),
          u8 (((v0 >>> 7) &&& 0xff)),
          u8 (((((v0) &&& 0x7f) <<< 1) ||| ((v1 >>> 38) &&& 0x1))),
          u8 (((v1 >>> 30) &&& 0xff)),
          u8 (((v1 >>> 22) &&& 0xff)),
          u8 (((v1 >>> 14) &&& 0xff)),
          u8 (((v1 >>> 6) &&& 0xff)),
          u8 (((((v1) &&& 0x3f) <<< 2) ||| ((v2 >>> 37) &&& 0x3))),
          u8 (((v2 >>> 29) &&& 0xff)),
          u8 (((v2 >>> 21) &&& 0xff)),
          u8 (((v2 >>> 13) &&& 0xff)),
          u8 (((v2 >>> 5) &&& 0xff)),
          u8 (((((v2) &&& 0x1f) <<< 3) ||| ((v3 >>> 36) &&& 0x7))),
          u8 (((v3 >>> 28) &&& 0xff)),
          u8 (((v3 >>> 20) &&& 0xff)),
          u8 (((v3 >>> 12) &&& 0xff)),
          u8 (((v3 >>> 4) &&& 0xff)),
          u8 (((((v3) &&& 0xf) <<< 4) ||| ((v4 >>> 35) &&& 0xf))),
          u8 (((v4 >>> 27) &&& 0xff)),
          u8 (((v4 >>> 19) &&& 0xff)),
          u8 (((v4 >>> 11) &&& 0xff)),
          u8 (((v4 >>> 3) &&& 0xff)),
          u8 (((((v4) &&& 0x7) <<< 5) ||| ((v5 >>> 34) &&& 0x1f))),
          u8 (((v5 >>> 26) &&& 0xff)),
          u8 (((v5 >>> 18) &&& 0xff)),
          u8 (((v5 >>> 10) &&& 0xff)),
          u8 (((v5 >>> 2) &&& 0xff)),
          u8 (((((v5) &&& 0x3) <<< 6) ||| ((v6 >>> 33) &&& 0x3f))),
          u8 (((v6 >>> 25) &&& 0xff)),
          u8 (((v6 >>> 17) &&& 0xff)),
          u8 (((v6 >>> 9) &&& 0xff)),
          u8 (((v6 >>> 1) &&& 0xff)),
          u8 (((((v6) &&& 0x1) <<< 7) ||| ((v7 >>> 32) &&& 0x7f))),
          u8 (((v7 >>> 24) &&& 0xff)),
          u8 (((v7 >>> 16) &&& 0xff)),
          u8 (((v7 >>> 8) &&& 0xff)),
          u8 (((v7) &&& 0xff)) ] := rfl
  obtain ⟨A0, S0, hT0, hA0, hS0⟩ :=
    streamT_decomp 39 [(v0, 39), (v1, 39), (v2, 39), (v3, 39), (v4, 39), (v5, 39), (v6, 39), (v7, 39)] [] [(v1, 39), (v2, 39), (v3, 39), (v4, 39), (v5, 39), (v6, 39), (v7, 39)] v0 39 0 rfl rfl hvs
      (by norm_num [List.map_cons, List.map_nil, List.sum_cons, List.sum_nil])
  obtain ⟨A1, S1, hT1, hA1, hS1⟩ :=
    streamT_decomp 39 [(v0, 39), (v1, 39), (v2, 39), (v3, 39), (v4, 39), (v5, 39), (v6, 39), (v7, 39)] [(v0, 39)] [(v2, 39), (v3, 39), (v4, 39), (v5, 39), (v6, 39), (v7, 39)] v1 39 39 rfl rfl hvs
      (by norm_num [List.map_cons, List.map_nil, List.sum_cons, List.sum_nil])
  obtain ⟨A2, S2, hT2, hA2, hS2⟩ :=
    streamT_decomp 39 [(v0, 39), (v1, 39), (v2, 39), (v3, 39), (v4, 39), (v5, 39), (v6, 39), (v7, 39)] [(v0, 39), (v1, 39)] [(v3, 39), (v4, 39), (v5, 39), (v6, 39), (v7, 39)] v2 39 78 rfl rfl hvs
      (by norm_num [List.map_cons, List.map_nil, List.sum_cons, List.sum_nil])
  obtain ⟨A3, S3, hT3, hA3, hS3⟩ :=
    streamT_decomp 39 [(v0, 39), (v1, 39), (v2, 39), (v3, 39), (v4, 39), (v5, 39), (v6, 39), (v7, 39)] [(v0, 39), (v1, 39), (v2, 39)] [(v4, 39), (v5, 39), (v6, 39), (v7, 39)] v3 39 117 rfl rfl hvs
      (by norm_num [List.map_cons, List.map_nil, List.sum_cons, List.sum_nil])
  obtain ⟨A4, S4, hT4, hA4, hS4⟩ :=
    streamT_decomp 39 [(v0, 39), (v1, 39), (v2, 39), (v3, 39), (v4, 39), (v5, 39), (v6, 39), (v7, 39)] [(v0, 39), (v1, 39), (v2, 39), (v3, 39)] [(v5, 39), (v6, 39), (v7, 39)] v4 39 156 rfl rfl hvs
      (by norm_num [List.map_cons, List.map_nil, List.sum_cons, List.sum_nil])
  obtain ⟨A5, S5, hT5, hA5, hS5⟩ :=
    streamT_decomp 39 [(v0, 39), (v1, 39), (v2, 39), (v3, 39), (v4, 39), (v5, 39), (v6, 39), (v7, 39)] [(v0, 39), (v1, 39), (v2, 39), (v3, 39), (v4, 39)] [(v6, 39), (v7, 39)] v5 39 195 rfl rfl hvs
      (by norm_num [List.map_cons, List.map_nil, List.sum_cons, List.sum_nil])
  obtain ⟨A6, S6, hT6, hA6, hS6⟩ :=
    streamT_decomp 39 [(v0, 39), (v1, 39), (v2, 39), (v3, 39), (v4, 39), (v5, 39), (v6, 39), (v7, 39)] [(v0, 39), (v1, 39), (v2, 39), (v3, 39), (v4, 39), (v5, 39)] [(v7, 39)] v6 39 234 rfl rfl hvs
      (by norm_num [List.map_cons, List.map_nil, List.sum_cons, List.sum_nil])
  obtain ⟨A7, S7, hT7, hA7, hS7⟩ :=
    streamT_decomp 39 [(v0, 39), (v1, 39), (v2, 39), (v3, 39), (v4, 39), (v5, 39), (v6, 39), (v7, 39)] [(v0, 39), (v1, 39), (v2, 39), (v3, 39), (v4, 39), (v5, 39), (v6, 39)] [] v7 39 273 rfl rfl hvs
      (by norm_num [List.map_cons, List.map_nil, List.sum_cons, List.sum_nil])
  obtain ⟨B0, R0, hU0, hB0, hR0⟩ :=
    streamT_decomp2 39 [(v0, 39), (v1, 39), (v2, 39), (v3, 39), (v4, 39), (v5, 39), (v6, 39), (v7, 39)] [] [(v2, 39), (v3, 39), (v4, 39), (v5, 39), (v6, 39), (v7, 39)] v0 v1 39 39 0 rfl rfl hvs
      (by norm_num [List.map_cons, List.map_nil, List.sum_cons, List.sum_nil])
  obtain ⟨B1, R1, hU1, hB1, hR1⟩ :=
    streamT_decomp2 39 [(v0, 39), (v1, 39), (v2, 39), (v3, 39), (v4, 39), (v5, 39), (v6, 39), (v7, 39)] [(v0, 39)] [(v3, 39), (v4, 39), (v5, 39), (v6, 39), (v7, 39)] v1 v2 39 39 39 rfl rfl hvs
      (by norm_num [List.map_cons, List.map_nil, List.sum_cons, List.sum_nil])
  obtain ⟨B2, R2, hU2, hB2, hR2⟩ :=
    streamT_decomp2 39 [(v0, 39), (v1, 39), (v2, 39), (v3, 39), (v4, 39), (v5, 39), (v6, 39), (v7, 39)] [(v0, 39), (v1, 39)] [(v4, 39), (v5, 39), (v6, 39), (v7, 39)] v2 v3 39 39 78 rfl rfl hvs
      (by norm_num [List.map_cons, List.map_nil, List.sum_cons, List.sum_nil])
  obtain ⟨B3, R3, hU3, hB3, hR3⟩ :=
    streamT_decomp2 39 [(v0, 39), (v1, 39), (v2, 39), (v3, 39), (v4, 39), (v5, 39), (v6, 39), (v7, 39)] [(v0, 39), (v1, 39), (v2, 39)] [(v5, 39), (v6, 39), (v7, 39)] v3 v4 39 39 117 rfl rfl hvs
      (by norm_num [List.map_cons, List.map_nil, List.sum_cons, List.sum_nil])
  obtain ⟨B4, R4, hU4, hB4, hR4⟩ :=
    streamT_decomp2 39 [(v0, 39), (v1, 39), (v2, 39), (v3, 39), (v4, 39), (v5, 39), (v6, 39), (v7, 39)] [(v0, 39), (v1, 39), (v2, 39), (v3, 39)] [(v6, 39), (v7, 39)] v4 v5 39 39 156 rfl rfl hvs
      (by norm_num [List.map_cons, List.map_nil, List.sum_cons, List.sum_nil])
  obtain ⟨B5, R5, hU5, hB5, hR5⟩ :=
    streamT_decomp2 39 [(v0, 39), (v1, 39), (v2, 39), (v3, 39), (v4, 39), (v5, 39), (v6, 39), (v7, 39)] [(v0, 39), (v1, 39), (v2, 39), (v3, 39), (v4, 39)] [(v7, 39)] v5 v6 39 39 195 rfl rfl hvs
      (by norm_num [List.map_cons, List.map_nil, List.sum_cons, List.sum_nil])
  obtain ⟨B6, R6, hU6, hB6, hR6⟩ :=
    streamT_decomp2 39 [(v0, 39), (v1, 39), (v2, 39), (v3, 39), (v4, 39), (v5, 39), (v6, 39), (v7, 39)] [(v0, 39), (v1, 39), (v2, 39), (v3, 39), (v4, 39), (v5, 39)] [] v6 v7 39 39 234 rfl rfl hvs
      (by norm_num [List.map_cons, List.map_nil, List.sum_cons, List.sum_nil])
  rw [key, key2]
  simp only [List.cons.injEq]
  refine ⟨?_, ?_, ?_, ?_, ?_, ?_, ?_, ?_, ?_, ?_, ?_, ?_, ?_, ?_, ?_, ?_, ?_, ?_, ?_, ?_, ?_, ?_, ?_, ?_, ?_, ?_, ?_, ?_, ?_, ?_, ?_, ?_, ?_, ?_, ?_, ?_, ?_, ?_, ?_, trivial⟩
  · rw [hT0]
    exact byteSpec_mid 39 A0 v0 S0 (8 * 39 - 0 - 39) 39 0 31 hA0 hS0
      (by norm_num) (by norm_num)
  · rw [hT0]
    exact byteSpec_mid 39 A0 v0 S0 (8 * 39 - 0 - 39) 39 1 23 hA0 hS0
      (by norm_num) (by norm_num)
  · rw [hT0]
    exact byteSpec_mid 39 A0 v0 S0 (8 * 39 - 0 - 39) 39 2 15 hA0 hS0
      (by norm_num) (by norm_num)
  · rw [hT0]
    exact byteSpec_mid 39 A0 v0 S0 (8 * 39 - 0 - 39) 39 3 7 hA0 hS0
      (by norm_num) (by norm_num)
  · rw [hU0]
    exact byteSpec_bnd 39 B0 v0 v1 R0 (8 * 39 - 0 - 39 - 39) 4 7 1 38 127 1 39 hB0 hv0 hv1 hR0
      (by norm_num) (by norm_num) (by norm_num) (by norm_num) (by norm_num)
  · rw [hT1]
    exact byteSpec_mid 39 A1 v1 S1 (8 * 39 - 39 - 39) 39 5 30 hA1 hS1
      (by norm_num) (by norm_num)
  · rw [hT1]
    exact byteSpec_mid 39 A1 v1 S1 (8 * 39 - 39 - 39) 39 6 22 hA1 hS1
      (by norm_num) (by norm_num)
  · rw [hT1]
    exact byteSpec_mid 39 A1 v1 S1 (8 * 39 - 39 - 39) 39 7 14 hA1 hS1
      (by norm_num) (by norm_num)
  · rw [hT1]
    exact byteSpec_mid 39 A1 v1 S1 (8 * 39 - 39 - 39) 39 8 6 hA1 hS1
      (by norm_num) (by norm_num)
  · rw [hU1]
    exact byteSpec_bnd 39 B1 v1 v2 R1 (8 * 39 - 39 - 39 - 39) 9 6 2 37 63 3 39 hB1 hv1 hv2 hR1
      (by norm_num) (by norm_num) (by norm_num) (by norm_num) (by norm_num)
  · rw [hT2]
    exact byteSpec_mid 39 A2 v2 S2 (8 * 39 - 78 - 39) 39 10 29 hA2 hS2
      (by norm_num) (by norm_num)
  · rw [hT2]
    exact byteSpec_mid 39 A2 v2 S2 (8 * 39 - 78 - 39) 39 11 21 hA2 hS2
      (by norm_num) (by norm_num)
  · rw [hT2]
    exact byteSpec_mid 39 A2 v2 S2 (8 * 39 - 78 - 39) 39 12 13 hA2 hS2
      (by norm_num) (by norm_num)
  · rw [hT2]
    exact byteSpec_mid 39 A2 v2 S2 (8 * 39 - 78 - 39) 39 13 5 hA2 hS2
      (by norm_num) (by norm_num)
  · rw [hU2]
    exact byteSpec_bnd 39 B2 v2 v3 R2 (8 * 39 - 78 - 39 - 39) 14 5 3 36 31 7 39 hB2 hv2 hv3 hR2
      (by norm_num) (by norm_num) (by norm_num) (by norm_num) (by norm_num)
  · rw [hT3]
    exact byteSpec_mid 39 A3 v3 S3 (8 * 39 - 117 - 39) 39 15 28 hA3 hS3
      (by norm_num) (by norm_num)
  · rw [hT3]
    exact byteSpec_mid 39 A3 v3 S3 (8 * 39 - 117 - 39) 39 16 20 hA3 hS3
      (by norm_num) (by norm_num)
  · rw [hT3]
    exact byteSpec_mid 39 A3 v3 S3 (8 * 39 - 117 - 39) 39 17 12 hA3 hS3
      (by norm_num) (by norm_num)
  · rw [hT3]
    exact byteSpec_mid 39 A3 v3 S3 (8 * 39 - 117 - 39) 39 18 4 hA3 hS3
      (by norm_num) (by norm_num)
  · rw [hU3]
    exact byteSpec_bnd 39 B3 v3 v4 R3 (8 * 39 - 117 - 39 - 39) 19 4 4 35 15 15 39 hB3 hv3 hv4 hR3
      (by norm_num) (by norm_num) (by norm_num) (by norm_num) (by norm_num)
  · rw [hT4]
    exact byteSpec_mid 39 A4 v4 S4 (8 * 39 - 156 - 39) 39 20 27 hA4 hS4
      (by norm_num) (by norm_num)
  · rw [hT4]
    exact byteSpec_mid 39 A4 v4 S4 (8 * 39 - 156 - 39) 39 21 19 hA4 hS4
      (by norm_num) (by norm_num)
  · rw [hT4]
    exact byteSpec_mid 39 A4 v4 S4 (8 * 39 - 156 - 39) 39 22 11 hA4 hS4
      (by norm_num) (by norm_num)
  · rw [hT4]
    exact byteSpec_mid 39 A4 v4 S4 (8 * 39 - 156 - 39) 39 23 3 hA4 hS4
      (by norm_num) (by norm_num)
  · rw [hU4]
    exact byteSpec_bnd 39 B4 v4 v5 R4 (8 * 39 - 156 - 39 - 39) 24 3 5 34 7 31 39 hB4 hv4 hv5 hR4
      (by norm_num) (by norm_num) (by norm_num) (by norm_num) (by norm_num)
  · rw [hT5]
    exact byteSpec_mid 39 A5 v5 S5 (8 * 39 - 195 - 39) 39 25 26 hA5 hS5
      (by norm_num) (by norm_num)
  · rw [hT5]
    exact byteSpec_mid 39 A5 v5 S5 (8 * 39 - 195 - 39) 39 26 18 hA5 hS5
      (by norm_num) (by norm_num)
  · rw [hT5]
    exact byteSpec_mid 39 A5 v5 S5 (8 * 39 - 195 - 39) 39 27 10 hA5 hS5
      (by norm_num) (by norm_num)
  · rw [hT5]
    exact byteSpec_mid 39 A5 v5 S5 (8 * 39 - 195 - 39) 39 28 2 hA5 hS5
      (by norm_num) (by norm_num)
  · rw [hU5]
    exact byteSpec_bnd 39 B5 v5 v6 R5 (8 * 39 - 195 - 39 - 39) 29 2 6 33 3 63 39 hB5 hv5 hv6 hR5
      (by norm_num) (by norm_num) (by norm_num) (by norm_num) (by norm_num)
  · rw [hT6]
    exact byteSpec_mid 39 A6 v6 S6 (8 * 39 - 234 - 39) 39 30 25 hA6 hS6
      (by norm_num) (by norm_num)
  · rw [hT6]
    exact byteSpec_mid 39 A6 v6 S6 (8 * 39 - 234 - 39) 39 31 17 hA6 hS6
      (by norm_num) (by norm_num)
  · rw [hT6]
    exact byteSpec_mid 39 A6 v6 S6 (8 * 39 - 234 - 39) 39 32 9 hA6 hS6
      (by norm_num) (by norm_num)
  · rw [hT6]
    exact byteSpec_mid 39 A6 v6 S6 (8 * 39 - 234 - 39) 39 33 1 hA6 hS6
      (by norm_num) (by norm_num)
  · rw [hU6]
    exact byteSpec_bnd 39 B6 v6 v7 R6 (8 * 39 - 234 - 39 - 39) 34 1 7 32 1 127 39 hB6 hv6 hv7 hR6
      (by norm_num) (by norm_num) (by norm_num) (by norm_num) (by norm_num)
  · rw [hT7]
    exact byteSpec_mid 39 A7 v7 S7 (8 * 39 - 273 - 39) 39 35 24 hA7 hS7
      (by norm_num) (by norm_num)
  · rw [hT7]
    exact byteSpec_mid 39 A7 v7 S7 (8 * 39 - 273 - 39) 39 36 16 hA7 hS7
      (by norm_num) (by norm_num)
  · rw [hT7]
    exact byteSpec_mid 39 A7 v7 S7 (8 * 39 - 273 - 39) 39 37 8 hA7 hS7
      (by norm_num) (by norm_num)
  · rw [hT7]
    exact byteSpec_mid0 39 A7 v7 S7 (8 * 39 - 273 - 39) 39 38 hA7 hS7
      (by norm_num) (by norm_num)

set_option maxRecDepth 16000 in
set_option maxHeartbeats 1000000 in
theorem c5_pack_eq_40 (v0 v1 v2 v3 v4 v5 v6 v7 : Nat) (hv0 : v0 < 2 ^ 40) (hv1 : v1 < 2 ^ 40) (hv2 : v2 < 2 ^ 40) (hv3 : v3 < 2 ^ 40) (hv4 : v4 < 2 ^ 40) (hv5 : v5 < 2 ^ 40) (hv6 : v6 < 2 ^ 40) (hv7 : v7 < 2 ^ 40) :
    (packSeq (BitPacker.new (List.replicate 40 0)) [(v0, 40), (v1, 40), (v2, 40), (v3, 40), (v4, 40), (v5, 40), (v6, 40), (v7, 40)]).bytes
      = pack_bits_40 v0 v1 v2 v3 v4 v5 v6 v7 := by
  have hvs : ∀ p ∈ ([(v0, 40), (v1, 40), (v2, 40), (v3, 40), (v4, 40), (v5, 40), (v6, 40), (v7, 40)] : List (Nat × Nat)), p.1 < 2 ^ p.2 := by
    intro p hp
    simp only [List.mem_cons, List.not_mem_nil, or_false] at hp
    rcases hp with rfl | rfl | rfl | rfl | rfl | rfl | rfl | rfl
    exacts [hv0, hv1, hv2, hv3, hv4, hv5, hv6, hv7]
  obtain ⟨-, -, -, ⟨hlen, hbytes⟩, -, -⟩ :=
    packSeq_inv 40 [(v0, 40), (v1, 40), (v2, 40), (v3, 40), (v4, 40), (v5, 40), (v6, 40), (v7, 40)] 0 0 _ hvs
      (by norm_num [List.map_cons, List.map_nil, List.sum_cons, List.sum_nil]) (packInv_init 40)
  have key : (packSeq (BitPacker.new (List.replicate 40 0)) [(v0, 40), (v1, 40), (v2, 40), (v3, 40), (v4, 40), (v5, 40), (v6, 40), (v7, 40)]).bytes
      = [ ByteSpec 40 (streamT 40 [(v0, 40), (v1, 40), (v2, 40), (v3, 40), (v4, 40), (v5, 40), (v6, 40), (v7, 40)] 0 0) 0,
          ByteSpec 40 (streamT 40 [(v0, 40), (v1, 40), (v2, 40), (v3, 40), (v4, 40), (v5, 40), (v6, 40), (v7, 40)] 0 0) 1,
          ByteSpec 40 (streamT 40 [(v0, 40), (v1, 40), (v2, 40), (v3, 40), (v4, 40), (v5, 40), (v6, 40), (v7, 40)] 0 0) 2,
          ByteSpec 40 (streamT 40 [(v0, 40), (v1, 40), (v2, 40), (v3, 40), (v4, 40), (v5, 40), (v6, 40), (v7, 40)] 0 0) 3,
          ByteSpec 40 (streamT 40 [(v0, 40), (v1, 40), (v2, 40), (v3, 40), (v4, 40), (v5, 40), (v6, 40), (v7, 40)] 0 0) 4,
          ByteSpec 40 (streamT 40 [(v0, 40), (v1, 40), (v2, 40), (v3, 40), (v4, 40), (v5, 40), (v6, 40), (v7, 40)] 0 0) 5,
          ByteSpec 40 (streamT 40 [(v0, 40), (v1, 40), (v2, 40), (v3, 40), (v4, 40), (v5, 40), (v6, 40), (v7, 40)] 0 0) 6,
          ByteSpec 40 (streamT 40 [(v0, 40), (v1, 40), (v2, 40), (v3, 40), (v4, 40), (v5, 40), (v6, 40), (v7, 40)] 0 0) 7,
          ByteSpec 40 (streamT 40 [(v0, 40), (v1, 40), (v2, 40), (v3, 40), (v4, 40), (v5, 40), (v6, 40), (v7, 40)] 0 0) 8,
          ByteSpec 40 (streamT 40 [(v0, 40), (v1, 40), (v2, 40), (v3, 40), (v4, 40), (v5, 40), (v6, 40), (v7, 40)] 0 0) 9,
          ByteSpec 40 (streamT 40 [(v0, 40), (v1, 40), (v2, 40), (v3, 40), (v4, 40), (v5, 40), (v6, 40), (v7, 40)] 0 0) 10,
          ByteSpec 40 (streamT 40 [(v0, 40), (v1, 40), (v2, 40), (v3, 40), (v4, 40), (v5, 40), (v6, 40), (v7, 40)] 0 0) 11,
          ByteSpec 40 (streamT 40 [(v0, 40), (v1, 40), (v2, 40), (v3, 40), (v4, 40), (v5, 40), (v6, 40), (v7, 40)] 0 0) 12,
          ByteSpec 40 (streamT 40 [(v0, 40), (v1, 40), (v2, 40), (v3, 40), (v4, 40), (v5, 40), (v6, 40), (v7, 40)] 0 0) 13,
          ByteSpec 40 (streamT 40 [(v0, 40), (v1, 40), (v2, 40), (v3, 40), (v4, 40), (v5, 40), (v6, 40), (v7, 40)] 0 0) 14,
          ByteSpec 40 (streamT 40 [(v0, 40), (v1, 40), (v2, 40), (v3, 40), (v4, 40), (v5, 40), (v6, 40), (v7, 40)] 0 0) 15,
          ByteSpec 40 (streamT 40 [(v0, 40), (v1, 40), (v2, 40), (v3, 40), (v4, 40), (v5, 40), (v6, 40), (v7, 40)] 0 0) 16,
          ByteSpec 40 (streamT 40 [(v0, 40), (v1, 40), (v2, 40), (v3, 40), (v4, 40), (v5, 40), (v6, 40), (v7, 40)] 0 0) 17,
          ByteSpec 40 (streamT 40 [(v0, 40), (v1, 40), (v2, 40), (v3, 40), (v4, 40), (v5, 40), (v6, 40), (v7, 40)] 0 0) 18,
          ByteSpec 40 (streamT 40 [(v0, 40), (v1, 40), (v2, 40), (v3, 40), (v4, 40), (v5, 40), (v6, 40), (v7, 40)] 0 0) 19,
          ByteSpec 40 (streamT 40 [(v0, 40), (v1, 40), (v2, 40), (v3, 40), (v4, 40), (v5, 40), (v6, 40), (v7, 40)] 0 0) 20,
          ByteSpec 40 (streamT 40 [(v0, 40), (v1, 40), (v2, 40), (v3, 40), (v4, 40), (v5, 40), (v6, 40), (v7, 40)] 0 0) 21,
          ByteSpec 40 (streamT 40 [(v0, 40), (v1, 40), (v2, 40), (v3, 40), (v4, 40), (v5, 40), (v6, 40), (v7, 40)] 0 0) 22,
          ByteSpec 40 (streamT 40 [(v0, 40), (v1, 40), (v2, 40), (v3, 40), (v4, 40), (v5, 40), (v6, 40), (v7, 40)] 0 0) 23,
          ByteSpec 40 (streamT 40 [(v0, 40), (v1, 40), (v2, 40), (v3, 40), (v4, 40), (v5, 40), (v6, 40), (v7, 40)] 0 0) 24,
          ByteSpec 40 (streamT 40 [(v0, 40), (v1, 40), (v2, 40), (v3, 40), (v4, 40), (v5, 40), (v6, 40), (v7, 40)] 0 0) 25,
          ByteSpec 40 (streamT 40 [(v0, 40), (v1, 40), (v2, 40), (v3, 40), (v4, 40), (v5, 40), (v6, 40), (v7, 40)] 0 0) 26,
          ByteSpec 40 (streamT 40 [(v0, 40), (v1, 40), (v2, 40), (v3, 40), (v4, 40), (v5, 40), (v6, 40), (v7, 40)] 0 0) 27,
          ByteSpec 40 (streamT 40 [(v0, 40), (v1, 40), (v2, 40), (v3, 40), (v4, 40), (v5, 40), (v6, 40), (v7, 40)] 0 0) 28,
          ByteSpec 40 (streamT 40 [(v0, 40), (v1, 40), (v2, 40), (v3, 40), (v4, 40), (v5, 40), (v6, 40), (v7, 40)] 0 0) 29,
          ByteSpec 40 (streamT 40 [(v0, 40), (v1, 40), (v2, 40), (v3, 40), (v4, 40), (v5, 40), (v6, 40), (v7, 40)] 0 0) 30,
          ByteSpec 40 (streamT 40 [(v0, 40), (v1, 40), (v2, 40), (v3, 40), (v4, 40), (v5, 40), (v6, 40), (v7, 40)] 0 0) 31,
          ByteSpec 40 (streamT 40 [(v0, 40), (v1, 40), (v2, 40), (v3, 40), (v4, 40), (v5, 40), (v6, 40), (v7, 40)] 0 0) 32,
          ByteSpec 40 (streamT 40 [(v0, 40), (v1, 40), (v2, 40), (v3, 40), (v4, 40), (v5, 40), (v6, 40), (v7, 40)] 0 0) 33,
          ByteSpec 40 (streamT 40 [(v0, 40), (v1, 40), (v2, 40), (v3, 40), (v4, 40), (v5, 40), (v6, 40), (v7, 40)] 0 0) 34,
          ByteSpec 40 (streamT 40 [(v0, 40), (v1, 40), (v2, 40), (v3, 40), (v4, 40), (v5, 40), (v6, 40), (v7, 40)] 0 0) 35,
          ByteSpec 40 (streamT 40 [(v0, 40), (v1, 40), (v2, 40), (v3, 40), (v4, 40), (v5, 40), (v6, 40), (v7, 40)] 0 0) 36,
          ByteSpec 40 (streamT 40 [(v0, 40), (v1, 40), (v2, 40), (v3, 40), (v4, 40), (v5, 40), (v6, 40), (v7, 40)] 0 0) 37,
          ByteSpec 40 (streamT 40 [(v0, 40), (v1, 40), (v2, 40), (v3, 40), (v4, 40), (v5, 40), (v6, 40), (v7, 40)] 0 0) 38,
          ByteSpec 40 (streamT 40 [(v0, 40), (v1, 40), (v2, 40), (v3, 40), (v4, 40), (v5, 40), (v6, 40), (v7, 40)] 0 0) 39 ] :=
    (list_eq_map_range_of_getD _ _ 40 hlen hbytes).trans (by rfl)
  have key2 : pack_bits_40 v0 v1 v2 v3 v4 v5 v6 v7
      = [ u8 (((v0 >>> 32) &&& 0xff)),
          u8 (((v0 >>> 24) &&& 0xff)),
          u8 (((v0 >>> 16) &&& 0xff)),
          u8 (((v0 >>> 8) &&& 0xff)),
          u8 (((v0) &&& 0xff)),
          u8 (((v1 >>> 32) &&& 0xff)),
          u8 (((v1 >>> 24) &&& 0xff)),
          u8 (((v1 >>> 16) &&& 0xff)),
          u8 (((v1 >>> 8) &&& 0xff)),
          u8 (((v1) &&& 0xff)),
          u8 (((v2 >>> 32) &&& 0xff)),
          u8 (((v2 >>> 24) &&& 0xff)),
          u8 (((v2 >>> 16) &&& 0xff)),
          u8 (((v2 >>> 8) &&& 0xff)),
          u8 (((v2) &&& 0xff)),
          u8 (((v3 >>> 32) &&& 0xff)),
          u8 (((v3 >>> 24) &&& 0xff)),
          u8 (((v3 >>> 16) &&& 0xff)),
          u8 (((v3 >>> 8) &&& 0xff)),
          u8 (((v3) &&& 0xff)),
          u8 (((v4 >>> 32) &&& 0xff)),
          u8 (((v4 >>> 24) &&& 0xff)),
          u8 (((v4 >>> 16) &&& 0xff)),
          u8 (((v4 >>> 8) &&& 0xff)),
          u8 (((v4) &&& 0xff)),
          u8 (((v5 >>> 32) &&& 0xff)),
          u8 (((v5 >>> 24) &&& 0xff)),
          u8 (((v5 >>> 16) &&& 0xff)),
          u8 (((v5 >>> 8) &&& 0xff)),
          u8 (((v5) &&& 0xff)),
          u8 (((v6 >>> 32) &&& 0xff)),
          u8 (((v6 >>> 24) &&& 0xff)),
          u8 (((v6 >>> 16) &&& 0xff)),
          u8 (((v6 >>> 8) &&& 0xff)),
          u8 (((v6) &&& 0xff)),
          u8 (((v7 >>> 32) &&& 0xff)),
          u8 (((v7 >>> 24) &&& 0xff)),
          u8 (((v7 >>> 16) &&& 0xff)),
          u8 (((v7 >>> 8) &&& 0xff)),
          u8 (((v7) &&& 0xff)) ] := rfl
  obtain ⟨A0, S0, hT0, hA0, hS0⟩ :=
    streamT_decomp 40 [(v0, 40), (v1, 40), (v2, 40), (v3, 40), (v4, 40), (v5, 40), (v6, 40), (v7, 40)] [] [(v1, 40), (v2, 40), (v3, 40), (v4, 40), (v5, 40), (v6, 40), (v7, 40)] v0 40 0 rfl rfl hvs
      (by norm_num [List.map_cons, List.map_nil, List.sum_cons, List.sum_nil])
  obtain ⟨A1, S1, hT1, hA1, hS1⟩ :=
    streamT_decomp 40 [(v0, 40), (v1, 40), (v2, 40), (v3, 40), (v4, 40), (v5, 40), (v6, 40), (v7, 40)] [(v0, 40)] [(v2, 40), (v3, 40), (v4, 40), (v5, 40), (v6, 40), (v7, 40)] v1 40 40 rfl rfl hvs
      (by norm_num [List.map_cons, List.map_nil, List.sum_cons, List.sum_nil])
  obtain ⟨A2, S2, hT2, hA2, hS2⟩ :=
    streamT_decomp 40 [(v0, 40), (v1, 40), (v2, 40), (v3, 40), (v4, 40), (v5, 40), (v6, 40), (v7, 40)] [(v0, 40), (v1, 40)] [(v3, 40), (v4, 40), (v5, 40), (v6, 40), (v7, 40)] v2 40 80 rfl rfl hvs
      (by norm_num [List.map_cons, List.map_nil, List.sum_cons, List.sum_nil])
  obtain ⟨A3, S3, hT3, hA3, hS3⟩ :=
    streamT_decomp 40 [(v0, 40), (v1, 40), (v2, 40), (v3, 40), (v4, 40), (v5, 40), (v6, 40), (v7, 40)] [(v0, 40), (v1, 40), (v2, 40)] [(v4, 40), (v5, 40), (v6, 40), (v7, 40)] v3 40 120 rfl rfl hvs
      (by norm_num [List.map_cons, List.map_nil, List.sum_cons, List.sum_nil])
  obtain ⟨A4, S4, hT4, hA4, hS4⟩ :=
    streamT_decomp 40 [(v0, 40), (v1, 40), (v2, 40), (v3, 40), (v4, 40), (v5, 40), (v6, 40), (v7, 40)] [(v0, 40), (v1, 40), (v2, 40), (v3, 40)] [(v5, 40), (v6, 40), (v7, 40)] v4 40 160 rfl rfl hvs
      (by norm_num [List.map_cons, List.map_nil, List.sum_cons, List.sum_nil])
  obtain ⟨A5, S5, hT5, hA5, hS5⟩ :=
    streamT_decomp 40 [(v0, 40), (v1, 40), (v2, 40), (v3, 40), (v4, 40), (v5, 40), (v6, 40), (v7, 40)] [(v0, 40), (v1, 40), (v2, 40), (v3, 40), (v4, 40)] [(v6, 40), (v7, 40)] v5 40 200 rfl rfl hvs
      (by norm_num [List.map_cons, List.map_nil, List.sum_cons, List.sum_nil])
  obtain ⟨A6, S6, hT6, hA6, hS6⟩ :=
    streamT_decomp 40 [(v0, 40), (v1, 40), (v2, 40), (v3, 40), (v4, 40), (v5, 40), (v6, 40), (v7, 40)] [(v0, 40), (v1, 40), (v2, 40), (v3, 40), (v4, 40), (v5, 40)] [(v7, 40)] v6 40 240 rfl rfl hvs
      (by norm_num [List.map_cons, List.map_nil, List.sum_cons, List.sum_nil])
  obtain ⟨A7, S7, hT7, hA7, hS7⟩ :=
    streamT_decomp 40 [(v0, 40), (v1, 40), (v2, 40), (v3, 40), (v4, 40), (v5, 40), (v6, 40), (v7, 40)] [(v0, 40), (v1, 40), (v2, 40), (v3, 40), (v4, 40), (v5, 40), (v6, 40)] [] v7 40 280 rfl rfl hvs
      (by norm_num [List.map_cons, List.map_nil, List.sum_cons, List.sum_nil])
  rw [key, key2]
  simp only [List.cons.injEq]
  refine ⟨?_, ?_, ?_, ?_, ?_, ?_, ?_, ?_, ?_, ?_, ?_, ?_, ?_, ?_, ?_, ?_, ?_, ?_, ?_, ?_, ?_, ?_, ?_, ?_, ?_, ?_, ?_, ?_, ?_, ?_, ?_, ?_, ?_, ?_, ?_, ?_, ?_, ?_, ?_, ?_, trivial⟩
  · rw [hT0]
    exact byteSpec_mid 40 A0 v0 S0 (8 * 40 - 0 - 40) 40 0 32 hA0 hS0
      (by norm_num) (by norm_num)
  · rw [hT0]
    exact byteSpec_mid 40 A0 v0 S0 (8 * 40 - 0 - 40) 40 1 24 hA0 hS0
      (by norm_num) (by norm_num)
  · rw [hT0]
    exact byteSpec_mid 40 A0 v0 S0 (8 * 40 - 0 - 40) 40 2 16 hA0 hS0
      (by norm_num) (by norm_num)
  · rw [hT0]
    exact byteSpec_mid 40 A0 v0 S0 (8 * 40 - 0 - 40) 40 3 8 hA0 hS0
      (by norm_num) (by norm_num)
  · rw [hT0]
    exact byteSpec_mid0 40 A0 v0 S0 (8 * 40 - 0 - 40) 40 4 hA0 hS0
      (by norm_num) (by norm_num)
  · rw [hT1]
    exact byteSpec_mid 40 A1 v1 S1 (8 * 40 - 40 - 40) 40 5 32 hA1 hS1
      (by norm_num) (by norm_num)
  · rw [hT1]
    exact byteSpec_mid 40 A1 v1 S1 (8 * 40 - 40 - 40) 40 6 24 hA1 hS1
      (by norm_num) (by norm_num)
  · rw [hT1]
    exact byteSpec_mid 40 A1 v1 S1 (8 * 40 - 40 - 40) 40 7 16 hA1 hS1
      (by norm_num) (by norm_num)
  · rw [hT1]
    exact byteSpec_mid 40 A1 v1 S1 (8 * 40 - 40 - 40) 40 8 8 hA1 hS1
      (by norm_num) (by norm_num)
  · rw [hT1]
    exact byteSpec_mid0 40 A1 v1 S1 (8 * 40 - 40 - 40) 40 9 hA1 hS1
      (by norm_num) (by norm_num)
  · rw [hT2]
    exact byteSpec_mid 40 A2 v2 S2 (8 * 40 - 80 - 40) 40 10 32 hA2 hS2
      (by norm_num) (by norm_num)
  · rw [hT2]
    exact byteSpec_mid 40 A2 v2 S2 (8 * 40 - 80 - 40) 40 11 24 hA2 hS2
      (by norm_num) (by norm_num)
  · rw [hT2]
    exact byteSpec_mid 40 A2 v2 S2 (8 * 40 - 80 - 40) 40 12 16 hA2 hS2
      (by norm_num) (by norm_num)
  · rw [hT2]
    exact byteSpec_mid 40 A2 v2 S2 (8 * 40 - 80 - 40) 40 13 8 hA2 hS2
      (by norm_num) (by norm_num)
  · rw [hT2]
    exact byteSpec_mid0 40 A2 v2 S2 (8 * 40 - 80 - 40) 40 14 hA2 hS2
      (by norm_num) (by norm_num)
  · rw [hT3]
    exact byteSpec_mid 40 A3 v3 S3 (8 * 40 - 120 - 40) 40 15 32 hA3 hS3
      (by norm_num) (by norm_num)
  · rw [hT3]
    exact byteSpec_mid 40 A3 v3 S3 (8 * 40 - 120 - 40) 40 16 24 hA3 hS3
      (by norm_num) (by norm_num)
  · rw [hT3]
    exact byteSpec_mid 40 A3 v3 S3 (8 * 40 - 120 - 40) 40 17 16 hA3 hS3
      (by norm_num) (by norm_num)
  · rw [hT3]
    exact byteSpec_mid 40 A3 v3 S3 (8 * 40 - 120 - 40) 40 18 8 hA3 hS3
      (by norm_num) (by norm_num)
  · rw [hT3]
    exact byteSpec_mid0 40 A3 v3 S3 (8 * 40 - 120 - 40) 40 19 hA3 hS3
      (by norm_num) (by norm_num)
  · rw [hT4]
    exact byteSpec_mid 40 A4 v4 S4 (8 * 40 - 160 - 40) 40 20 32 hA4 hS4
      (by norm_num) (by norm_num)
  · rw [hT4]
    exact byteSpec_mid 40 A4 v4 S4 (8 * 40 - 160 - 40) 40 21 24 hA4 hS4
      (by norm_num) (by norm_num)
  · rw [hT4]
    exact byteSpec_mid 40 A4 v4 S4 (8 * 40 - 160 - 40) 40 22 16 hA4 hS4
      (by norm_num) (by norm_num)
  · rw [hT4]
    exact byteSpec_mid 40 A4 v4 S4 (8 * 40 - 160 - 40) 40 23 8 hA4 hS4
      (by norm_num) (by norm_num)
  · rw [hT4]
    exact byteSpec_mid0 40 A4 v4 S4 (8 * 40 - 160 - 40) 40 24 hA4 hS4
      (by norm_num) (by norm_num)
  · rw [hT5]
    exact byteSpec_mid 40 A5 v5 S5 (8 * 40 - 200 - 40) 40 25 32 hA5 hS5
      (by norm_num) (by norm_num)
  · rw [hT5]
    exact byteSpec_mid 40 A5 v5 S5 (8 * 40 - 200 - 40) 40 26 24 hA5 hS5
      (by norm_num) (by norm_num)
  · rw [hT5]
    exact byteSpec_mid 40 A5 v5 S5 (8 * 40 - 200 - 40) 40 27 16 hA5 hS5
      (by norm_num) (by norm_num)
  · rw [hT5]
    exact byteSpec_mid 40 A5 v5 S5 (8 * 40 - 200 - 40) 40 28 8 hA5 hS5
      (by norm_num) (by norm_num)
  · rw [hT5]
    exact byteSpec_mid0 40 A5 v5 S5 (8 * 40 - 200 - 40) 40 29 hA5 hS5
      (by norm_num) (by norm_num)
  · rw [hT6]
    exact byteSpec_mid 40 A6 v6 S6 (8 * 40 - 240 - 40) 40 30 32 hA6 hS6
      (by norm_num) (by norm_num)
  · rw [hT6]
    exact byteSpec_mid 40 A6 v6 S6 (8 * 40 - 240 - 40) 40 31 24 hA6 hS6
      (by norm_num) (by norm_num)
  · rw [hT6]
    exact byteSpec_mid 40 A6 v6 S6 (8 * 40 - 240 - 40) 40 32 16 hA6 hS6
      (by norm_num) (by norm_num)
  · rw [hT6]
    exact byteSpec_mid 40 A6 v6 S6 (8 * 40 - 240 - 40) 40 33 8 hA6 hS6
      (by norm_num) (by norm_num)
  · rw [hT6]
    exact byteSpec_mid0 40 A6 v6 S6 (8 * 40 - 240 - 40) 40 34 hA6 hS6
      (by norm_num) (by norm_num)
  · rw [hT7]
    exact byteSpec_mid 40 A7 v7 S7 (8 * 40 - 280 - 40) 40 35 32 hA7 hS7
      (by norm_num) (by norm_num)
  · rw [hT7]
    exact byteSpec_mid 40 A7 v7 S7 (8 * 40 - 280 - 40) 40 36 24 hA7 hS7
      (by norm_num) (by norm_num)
  · rw [hT7]
    exact byteSpec_mid 40 A7 v7 S7 (8 * 40 - 280 - 40) 40 37 16 hA7 hS7
      (by norm_num) (by norm_num)
  · rw [hT7]
    exact byteSpec_mid 40 A7 v7 S7 (8 * 40 - 280 - 40) 40 38 8 hA7 hS7
      (by norm_num) (by norm_num)
  · rw [hT7]
    exact byteSpec_mid0 40 A7 v7 S7 (8 * 40 - 280 - 40) 40 39 hA7 hS7
      (by norm_num) (by norm_num)

set_option maxRecDepth 16000 in
set_option maxHeartbeats 1000000 in
theorem c5_pack_eq_41 (v0 v1 v2 v3 v4 v5 v6 v7 : Nat) (hv0 : v0 < 2 ^ 41) (hv1 : v1 < 2 ^ 41) (hv2 : v2 < 2 ^ 41) (hv3 : v3 < 2 ^ 41) (hv4 : v4 < 2 ^ 41) (hv5 : v5 < 2 ^ 41) (hv6 : v6 < 2 ^ 41) (hv7 : v7 < 2 ^ 41) :
    (packSeq (BitPacker.new (List.replicate 41 0)) [(v0, 41), (v1, 41), (v2, 41), (v3, 41), (v4, 41), (v5, 41), (v6, 41), (v7, 41)]).bytes
      = pack_bits_41 v0 v1 v2 v3 v4 v5 v6 v7 := by
  have hvs : ∀ p ∈ ([(v0, 41), (v1, 41), (v2, 41), (v3, 41), (v4, 41), (v5, 41), (v6, 41), (v7, 41)] : List (Nat × Nat)), p.1 < 2 ^ p.2 := by
    intro p hp
    simp only [List.mem_cons, List.not_mem_nil, or_false] at hp
    rcases hp with rfl | rfl | rfl | rfl | rfl | rfl | rfl | rfl
    exacts [hv0, hv1, hv2, hv3, hv4, hv5, hv6, hv7]
  obtain ⟨-, -, -, ⟨hlen, hbytes⟩, -, -⟩ :=
    packSeq_inv 41 [(v0, 41), (v1, 41), (v2, 41), (v3, 41), (v4, 41), (v5, 41), (v6, 41), (v7, 41)] 0 0 _ hvs
      (by norm_num [List.map_cons, List.map_nil, List.sum_cons, List.sum_nil]) (packInv_init 41)
  have key : (packSeq (BitPacker.new (List.replicate 41 0)) [(v0, 41), (v1, 41), (v2, 41), (v3, 41), (v4, 41), (v5, 41), (v6, 41), (v7, 41)]).bytes
      = [ ByteSpec 41 (streamT 41 [(v0, 41), (v1, 41), (v2, 41), (v3, 41), (v4, 41), (v5, 41), (v6, 41), (v7, 41)] 0 0) 0,
          ByteSpec 41 (streamT 41 [(v0, 41), (v1, 41), (v2, 41), (v3, 41), (v4, 41), (v5, 41), (v6, 41), (v7, 41)] 0 0) 1,
          ByteSpec 41 (streamT 41 [(v0, 41), (v1, 41), (v2, 41), (v3, 41), (v4, 41), (v5, 41), (v6, 41), (v7, 41)] 0 0) 2,
          ByteSpec 41 (streamT 41 [(v0, 41), (v1, 41), (v2, 41), (v3, 41), (v4, 41), (v5, 41), (v6, 41), (v7, 41)] 0 0) 3,
          ByteSpec 41 (streamT 41 [(v0, 41), (v1, 41), (v2, 41), (v3, 41), (v4, 41), (v5, 41), (v6, 41), (v7, 41)] 0 0) 4,
          ByteSpec 41 (streamT 41 [(v0, 41), (v1, 41), (v2, 41), (v3, 41), (v4, 41), (v5, 41), (v6, 41), (v7, 41)] 0 0) 5,
          ByteSpec 41 (streamT 41 [(v0, 41), (v1, 41), (v2, 41), (v3, 41), (v4, 41), (v5, 41), (v6, 41), (v7, 41)] 0 0) 6,
          ByteSpec 41 (streamT 41 [(v0, 41), (v1, 41), (v2, 41), (v3, 41), (v4, 41), (v5, 41), (v6, 41), (v7, 41)] 0 0) 7,
          ByteSpec 41 (streamT 41 [(v0, 41), (v1, 41), (v2, 41), (v3, 41), (v4, 41), (v5, 41), (v6, 41), (v7, 41)] 0 0) 8,
          ByteSpec 41 (streamT 41 [(v0, 41), (v1, 41), (v2, 41), (v3, 41), (v4, 41), (v5, 41), (v6, 41), (v7, 41)] 0 0) 9,
          ByteSpec 41 (streamT 41 [(v0, 41), (v1, 41), (v2, 41), (v3, 41), (v4, 41), (v5, 41), (v6, 41), (v7, 41)] 0 0) 10,
          ByteSpec 41 (streamT 41 [(v0, 41), (v1, 41), (v2, 41), (v3, 41), (v4, 41), (v5, 41), (v6, 41), (v7, 41)] 0 0) 11,
          ByteSpec 41 (streamT 41 [(v0, 41), (v1, 41), (v2, 41), (v3, 41), (v4, 41), (v5, 41), (v6, 41), (v7, 41)] 0 0) 12,
          ByteSpec 41 (streamT 41 [(v0, 41), (v1, 41), (v2, 41), (v3, 41), (v4, 41), (v5, 41), (v6, 41), (v7, 41)] 0 0) 13,
          ByteSpec 41 (streamT 41 [(v0, 41), (v1, 41), (v2, 41), (v3, 41), (v4, 41), (v5, 41), (v6, 41), (v7, 41)] 0 0) 14,
          ByteSpec 41 (streamT 41 [(v0, 41), (v1, 41), (v2, 41), (v3, 41), (v4, 41), (v5, 41), (v6, 41), (v7, 41)] 0 0) 15,
          ByteSpec 41 (streamT 41 [(v0, 41), (v1, 41), (v2, 41), (v3, 41), (v4, 41), (v5, 41), (v6, 41), (v7, 41)] 0 0) 16,
          ByteSpec 41 (streamT 41 [(v0, 41), (v1, 41), (v2, 41), (v3, 41), (v4, 41), (v5, 41), (v6, 41), (v7, 41)] 0 0) 17,
          ByteSpec 41 (streamT 41 [(v0, 41), (v1, 41), (v2, 41), (v3, 41), (v4, 41), (v5, 41), (v6, 41), (v7, 41)] 0 0) 18,
          ByteSpec 41 (streamT 41 [(v0, 41), (v1, 41), (v2, 41), (v3, 41), (v4, 41), (v5, 41), (v6, 41), (v7, 41)] 0 0) 19,
          ByteSpec 41 (streamT 41 [(v0, 41), (v1, 41), (v2, 41), (v3, 41), (v4, 41), (v5, 41), (v6, 41), (v7, 41)] 0 0) 20,
          ByteSpec 41 (streamT 41 [(v0, 41), (v1, 41), (v2, 41), (v3, 41), (v4, 41), (v5, 41), (v6, 41), (v7, 41)] 0 0) 21,
          ByteSpec 41 (streamT 41 [(v0, 41), (v1, 41), (v2, 41), (v3, 41), (v4, 41), (v5, 41), (v6, 41), (v7, 41)] 0 0) 22,
          ByteSpec 41 (streamT 41 [(v0, 41), (v1, 41), (v2, 41), (v3, 41), (v4, 41), (v5, 41), (v6, 41), (v7, 41)] 0 0) 23,
          ByteSpec 41 (streamT 41 [(v0, 41), (v1, 41), (v2, 41), (v3, 41), (v4, 41), (v5, 41), (v6, 41), (v7, 41)] 0 0) 24,
          ByteSpec 41 (streamT 41 [(v0, 41), (v1, 41), (v2, 41), (v3, 41), (v4, 41), (v5, 41), (v6, 41), (v7, 41)] 0 0) 25,
          ByteSpec 41 (streamT 41 [(v0, 41), (v1, 41), (v2, 41), (v3, 41), (v4, 41), (v5, 41), (v6, 41), (v7, 41)] 0 0) 26,
          ByteSpec 41 (streamT 41 [(v0, 41), (v1, 41), (v2, 41), (v3, 41), (v4, 41), (v5, 41), (v6, 41), (v7, 41)] 0 0) 27,
          ByteSpec 41 (streamT 41 [(v0, 41), (v1, 41), (v2, 41), (v3, 41), (v4, 41), (v5, 41), (v6, 41), (v7, 41)] 0 0) 28,
          ByteSpec 41 (streamT 41 [(v0, 41), (v1, 41), (v2, 41), (v3, 41), (v4, 41), (v5, 41), (v6, 41), (v7, 41)] 0 0) 29,
          ByteSpec 41 (streamT 41 [(v0, 41), (v1, 41), (v2, 41), (v3, 41), (v4, 41), (v5, 41), (v6, 41), (v7, 41)] 0 0) 30,
          ByteSpec 41 (streamT 41 [(v0, 41), (v1, 41), (v2, 41), (v3, 41), (v4, 41), (v5, 41), (v6, 41), (v7, 41)] 0 0) 31,
          ByteSpec 41 (streamT 41 [(v0, 41), (v1, 41), (v2, 41), (v3, 41), (v4, 41), (v5, 41), (v6, 41), (v7, 41)] 0 0) 32,
          ByteSpec 41 (streamT 41 [(v0, 41), (v1, 41), (v2, 41), (v3, 41), (v4, 41), (v5, 41), (v6, 41), (v7, 41)] 0 0) 33,
          ByteSpec 41 (streamT 41 [(v0, 41), (v1, 41), (v2, 41), (v3, 41), (v4, 41), (v5, 41), (v6, 41), (v7, 41)] 0 0) 34,
          ByteSpec 41 (streamT 41 [(v0, 41), (v1, 41), (v2, 41), (v3, 41), (v4, 41), (v5, 41), (v6, 41), (v7, 41)] 0 0) 35,
          ByteSpec 41 (streamT 41 [(v0, 41), (v1, 41), (v2, 41), (v3, 41), (v4, 41), (v5, 41), (v6, 41), (v7, 41)] 0 0) 36,
          ByteSpec 41 (streamT 41 [(v0, 41), (v1, 41), (v2, 41), (v3, 41), (v4, 41), (v5, 41), (v6, 41), (v7, 41)] 0 0) 37,
          ByteSpec 41 (streamT 41 [(v0, 41), (v1, 41), (v2, 41), (v3, 41), (v4, 41), (v5, 41), (v6, 41), (v7, 41)] 0 0) 38,
          ByteSpec 41 (streamT 41 [(v0, 41), (v1, 41), (v2, 41), (v3, 41), (v4, 41), (v5, 41), (v6, 41), (v7, 41)] 0 0) 39,
          ByteSpec 41 (streamT 41 [(v0, 41), (v1, 41), (v2, 41), (v3, 41), (v4, 41), (v5, 41), (v6, 41), (v7, 41)] 0 0) 40 ] :=
    (list_eq_map_range_of_getD _ _ 41 hlen hbytes).trans (by rfl)
  have key2 : pack_bits_41 v0 v1 v2 v3 v4 v5 v6 v7
      = [ u8 (((v0 >>> 33) &&& 0xff)),
          u8 (((v0 >>> 25) &&& 0xff)),
          u8 (((v0 >>> 17) &&& 0xff)),
          u8 (((v0 >>> 9) &&& 0xff)),
          u8 (((v0 >>> 1) &&& 0xff)),
          u8 (((((v0) &&& 0x1) <<< 7) ||| ((v1 >>> 34) &&& 0x7f))),
          u8 (((v1 >>> 26) &&& 0xff)),
          u8 (((v1 >>> 18) &&& 0xff)),
          u8 (((v1 >>> 10) &&& 0xff)),
          u8 (((v1 >>> 2) &&& 0xff)),
          u8 (((((v1) &&& 0x3) <<< 6) ||| ((v2 >>> 35) &&& 0x3f))),
          u8 (((v2 >>> 27) &&& 0xff)),
          u8 (((v2 >>> 19) &&& 0xff)),
          u8 (((v2 >>> 11) &&& 0xff)),
          u8 (((v2 >>> 3) &&& 0xff)),
          u8 (((((v2) &&& 0x7) <<< 5) ||| ((v3 >>> 36) &&& 0x1f))),
          u8 (((v3 >>> 28) &&& 0xff)),
          u8 (((v3 >>> 20) &&& 0xff)),
          u8 (((v3 >>> 12) &&& 0xff)),
          u8 (((v3 >>> 4) &&& 0xff)),
          u8 (((((v3) &&& 0xf) <<< 4) ||| ((v4 >>> 37) &&& 0xf))),
          u8 (((v4 >>> 29) &&& 0xff)),
          u8 (((v4 >>> 21) &&& 0xff)),
          u8 (((v4 >>> 13) &&& 0xff)),
          u8 (((v4 >>> 5) &&& 0xff)),
          u8 (((((v4) &&& 0x1f) <<< 3) ||| ((v5 >>> 38) &&& 0x7))),
          u8 (((v5 >>> 30) &&& 0xff)),
          u8 (((v5 >>> 22) &&& 0xff)),
          u8 (((v5 >>> 14) &&& 0xff)),
          u8 (((v5 >>> 6) &&& 0xff)),
          u8 (((((v5) &&& 0x3f) <<< 2) ||| ((v6 >>> 39) &&& 0x3))),
          u8 (((v6 >>> 31) &&& 0xff)),
          u8 (((v6 >>> 23) &&& 0xff)),
          u8 (((v6 >>> 15) &&& 0xff)),
          u8 (((v6 >>> 7) &&& 0xff)),
          u8 (((((v6) &&& 0x7f) <<< 1) ||| ((v7 >>> 40) &&& 0x1))),
          u8 (((v7 >>> 32) &&& 0xff)),
          u8 (((v7 >>> 24) &&& 0xff)),
          u8 (((v7 >>> 16) &&& 0xff)),
          u8 (((v7 >>> 8) &&& 0xff)),
          u8 (((v7) &&& 0xff)) ] := rfl
  obtain ⟨A0, S0, hT0, hA0, hS0⟩ :=
    streamT_decomp 41 [(v0, 41), (v1, 41), (v2, 41), (v3, 41), (v4, 41), (v5, 41), (v6, 41), (v7, 41)] [] [(v1, 41), (v2, 41), (v3, 41), (v4, 41), (v5, 41), (v6, 41), (v7, 41)] v0 41 0 rfl rfl hvs
      (by norm_num [List.map_cons, List.map_nil, List.sum_cons, List.sum_nil])
  obtain ⟨A1, S1, hT1, hA1, hS1⟩ :=
    streamT_decomp 41 [(v0, 41), (v1, 41), (v2, 41), (v3, 41), (v4, 41), (v5, 41), (v6, 41), (v7, 41)] [(v0, 41)] [(v2, 41), (v3, 41), (v4, 41), (v5, 41), (v6, 41), (v7, 41)] v1 41 41 rfl rfl hvs
      (by norm_num [List.map_cons, List.map_nil, List.sum_cons, List.sum_nil])
  obtain ⟨A2, S2, hT2, hA2, hS2⟩ :=
    streamT_decomp 41 [(v0, 41), (v1, 41), (v2, 41), (v3, 41), (v4, 41), (v5, 41), (v6, 41), (v7, 41)] [(v0, 41), (v1, 41)] [(v3, 41), (v4, 41), (v5, 41), (v6, 41), (v7, 41)] v2 41 82 rfl rfl hvs
      (by norm_num [List.map_cons, List.map_nil, List.sum_cons, List.sum_nil])
  obtain ⟨A3, S3, hT3, hA3, hS3⟩ :=
    streamT_decomp 41 [(v0, 41), (v1, 41), (v2, 41), (v3, 41), (v4, 41), (v5, 41), (v6, 41), (v7, 41)] [(v0, 41), (v1, 41), (v2, 41)] [(v4, 41), (v5, 41), (v6, 41), (v7, 41)] v3 41 123 rfl rfl hvs
      (by norm_num [List.map_cons, List.map_nil, List.sum_cons, List.sum_nil])
  obtain ⟨A4, S4, hT4, hA4, hS4⟩ :=
    streamT_decomp 41 [(v0, 41), (v1, 41), (v2, 41), (v3, 41), (v4, 41), (v5, 41), (v6, 41), (v7, 41)] [(v0, 41), (v1, 41), (v2, 41), (v3, 41)] [(v5, 41), (v6, 41), (v7, 41)] v4 41 164 rfl rfl hvs
      (by norm_num [List.map_cons, List.map_nil, List.sum_cons, List.sum_nil])
  obtain ⟨A5, S5, hT5, hA5, hS5⟩ :=
    streamT_decomp 41 [(v0, 41), (v1, 41), (v2, 41), (v3, 41), (v4, 41), (v5, 41), (v6, 41), (v7, 41)] [(v0, 41), (v1, 41), (v2, 41), (v3, 41), (v4, 41)] [(v6, 41), (v7, 41)] v5 41 205 rfl rfl hvs
      (by norm_num [List.map_cons, List.map_nil, List.sum_cons, List.sum_nil])
  obtain ⟨A6, S6, hT6, hA6, hS6⟩ :=
    streamT_decomp 41 [(v0, 41), (v1, 41), (v2, 41), (v3, 41), (v4, 41), (v5, 41), (v6, 41), (v7, 41)] [(v0, 41), (v1, 41), (v2, 41), (v3, 41), (v4, 41), (v5, 41)] [(v7, 41)] v6 41 246 rfl rfl hvs
      (by norm_num [List.map_cons, List.map_nil, List.sum_cons, List.sum_nil])
  obtain ⟨A7, S7, hT7, hA7, hS7⟩ :=
    streamT_decomp 41 [(v0, 41), (v1, 41), (v2, 41), (v3, 41), (v4, 41), (v5, 41), (v6, 41), (v7, 41)] [(v0, 41), (v1, 41), (v2, 41), (v3, 41), (v4, 41), (v5, 41), (v6, 41)] [] v7 41 287 rfl rfl hvs
      (by norm_num [List.map_cons, List.map_nil, List.sum_cons, List.sum_nil])
  obtain ⟨B0, R0, hU0, hB0, hR0⟩ :=
    streamT_decomp2 41 [(v0, 41), (v1, 41), (v2, 41), (v3, 41), (v4, 41), (v5, 41), (v6, 41), (v7, 41)] [] [(v2, 41), (v3, 41), (v4, 41), (v5, 41), (v6, 41), (v7, 41)] v0 v1 41 41 0 rfl rfl hvs
      (by norm_num [List.map_cons, List.map_nil, List.sum_cons, List.sum_nil])
  obtain ⟨B1, R1, hU1, hB1, hR1⟩ :=
    streamT_decomp2 41 [(v0, 41), (v1, 41), (v2, 41), (v3, 41), (v4, 41), (v5, 41), (v6, 41), (v7, 41)] [(v0, 41)] [(v3, 41), (v4, 41), (v5, 41), (v6, 41), (v7, 41)] v1 v2 41 41 41 rfl rfl hvs
      (by norm_num [List.map_cons, List.map_nil, List.sum_cons, List.sum_nil])
  obtain ⟨B2, R2, hU2, hB2, hR2⟩ :=
    streamT_decomp2 41 [(v0, 41), (v1, 41), (v2, 41), (v3, 41), (v4, 41), (v5, 41), (v6, 41), (v7, 41)] [(v0, 41), (v1, 41)] [(v4, 41), (v5, 41), (v6, 41), (v7, 41)] v2 v3 41 41 82 rfl rfl hvs
      (by norm_num [List.map_cons, List.map_nil, List.sum_cons, List.sum_nil])
  obtain ⟨B3, R3, hU3, hB3, hR3⟩ :=
    streamT_decomp2 41 [(v0, 41), (v1, 41), (v2, 41), (v3, 41), (v4, 41), (v5, 41), (v6, 41), (v7, 41)] [(v0, 41), (v1, 41), (v2, 41)] [(v5, 41), (v6, 41), (v7, 41)] v3 v4 41 41 123 rfl rfl hvs
      (by norm_num [List.map_cons, List.map_nil, List.sum_cons, List.sum_nil])
  obtain ⟨B4, R4, hU4, hB4, hR4⟩ :=
    streamT_decomp2 41 [(v0, 41), (v1, 41), (v2, 41), (v3, 41), (v4, 41), (v5, 41), (v6, 41), (v7, 41)] [(v0, 41), (v1, 41), (v2, 41), (v3, 41)] [(v6, 41), (v7, 41)] v4 v5 41 41 164 rfl rfl hvs
      (by norm_num [List.map_cons, List.map_nil, List.sum_cons, List.sum_nil])
  obtain ⟨B5, R5, hU5, hB5, hR5⟩ :=
    streamT_decomp2 41 [(v0, 41), (v1, 41), (v2, 41), (v3, 41), (v4, 41), (v5, 41), (v6, 41), (v7, 41)] [(v0, 41), (v1, 41), (v2, 41), (v3, 41), (v4, 41)] [(v7, 41)] v5 v6 41 41 205 rfl rfl hvs
      (by norm_num [List.map_cons, List.map_nil, List.sum_cons, List.sum_nil])
  obtain ⟨B6, R6, hU6, hB6, hR6⟩ :=
    streamT_decomp2 41 [(v0, 41), (v1, 41), (v2, 41), (v3, 41), (v4, 41), (v5, 41), (v6, 41), (v7, 41)] [(v0, 41), (v1, 41), (v2, 41), (v3, 41), (v4, 41), (v5, 41)] [] v6 v7 41 41 246 rfl rfl hvs
      (by norm_num [List.map_cons, List.map_nil, List.sum_cons, List.sum_nil])
  rw [key, key2]
  simp only [List.cons.injEq]
  refine ⟨?_, ?_, ?_, ?_, ?_, ?_, ?_, ?_, ?_, ?_, ?_, ?_, ?_, ?_, ?_, ?_, ?_, ?_, ?_, ?_, ?_, ?_, ?_, ?_, ?_, ?_, ?_, ?_, ?_, ?_, ?_, ?_, ?_, ?_, ?_, ?_, ?_, ?_, ?_, ?_, ?_, trivial⟩
  · rw [hT0]
    exact byteSpec_mid 41 A0 v0 S0 (8 * 41 - 0 - 41) 41 0 33 hA0 hS0
      (by norm_num) (by norm_num)
  · rw [hT0]
    exact byteSpec_mid 41 A0 v0 S0 (8 * 41 - 0 - 41) 41 1 25 hA0 hS0
      (by norm_num) (by norm_num)
  · rw [hT0]
    exact byteSpec_mid 41 A0 v0 S0 (8 * 41 - 0 - 41) 41 2 17 hA0 hS0
      (by norm_num) (by norm_num)
  · rw [hT0]
    exact byteSpec_mid 41 A0 v0 S0 (8 * 41 - 0 - 41) 41 3 9 hA0 hS0
      (by norm_num) (by norm_num)
  · rw [hT0]
    exact byteSpec_mid 41 A0 v0 S0 (8 * 41 - 0 - 41) 41 4 1 hA0 hS0
      (by norm_num) (by norm_num)
  · rw [hU0]
    exact byteSpec_bnd 41 B0 v0 v1 R0 (8 * 41 - 0 - 41 - 41) 5 1 7 34 1 127 41 hB0 hv0 hv1 hR0
      (by norm_num) (by norm_num) (by norm_num) (by norm_num) (by norm_num)
  · rw [hT1]
    exact byteSpec_mid 41 A1 v1 S1 (8 * 41 - 41 - 41) 41 6 26 hA1 hS1
      (by norm_num) (by norm_num)
  · rw [hT1]
    exact byteSpec_mid 41 A1 v1 S1 (8 * 41 - 41 - 41) 41 7 18 hA1 hS1
      (by norm_num) (by norm_num)
  · rw [hT1]
    exact byteSpec_mid 41 A1 v1 S1 (8 * 41 - 41 - 41) 41 8 10 hA1 hS1
      (by norm_num) (by norm_num)
  · rw [hT1]
    exact byteSpec_mid 41 A1 v1 S1 (8 * 41 - 41 - 41) 41 9 2 hA1 hS1
      (by norm_num) (by norm_num)
  · rw [hU1]
    exact byteSpec_bnd 41 B1 v1 v2 R1 (8 * 41 - 41 - 41 - 41) 10 2 6 35 3 63 41 hB1 hv1 hv2 hR1
      (by norm_num) (by norm_num) (by norm_num) (by norm_num) (by norm_num)
  · rw [hT2]
    exact byteSpec_mid 41 A2 v2 S2 (8 * 41 - 82 - 41) 41 11 27 hA2 hS2
      (by norm_num) (by norm_num)
  · rw [hT2]
    exact byteSpec_mid 41 A2 v2 S2 (8 * 41 - 82 - 41) 41 12 19 hA2 hS2
      (by norm_num) (by norm_num)
  · rw [hT2]
    exact byteSpec_mid 41 A2 v2 S2 (8 * 41 - 82 - 41) 41 13 11 hA2 hS2
      (by norm_num) (by norm_num)
  · rw [hT2]
    exact byteSpec_mid 41 A2 v2 S2 (8 * 41 - 82 - 41) 41 14 3 hA2 hS2
      (by norm_num) (by norm_num)
  · rw [hU2]
    exact byteSpec_bnd 41 B2 v2 v3 R2 (8 * 41 - 82 - 41 - 41) 15 3 5 36 7 31 41 hB2 hv2 hv3 hR2
      (by norm_num) (by norm_num) (by norm_num) (by norm_num) (by norm_num)
  · rw [hT3]
    exact byteSpec_mid 41 A3 v3 S3 (8 * 41 - 123 - 41) 41 16 28 hA3 hS3
      (by norm_num) (by norm_num)
  · rw [hT3]
    exact byteSpec_mid 41 A3 v3 S3 (8 * 41 - 123 - 41) 41 17 20 hA3 hS3
      (by norm_num) (by norm_num)
  · rw [hT3]
    exact byteSpec_mid 41 A3 v3 S3 (8 * 41 - 123 - 41) 41 18 12 hA3 hS3
      (by norm_num) (by norm_num)
  · rw [hT3]
    exact byteSpec_mid 41 A3 v3 S3 (8 * 41 - 123 - 41) 41 19 4 hA3 hS3
      (by norm_num) (by norm_num)
  · rw [hU3]
    exact byteSpec_bnd 41 B3 v3 v4 R3 (8 * 41 - 123 - 41 - 41) 20 4 4 37 15 15 41 hB3 hv3 hv4 hR3
      (by norm_num) (by norm_num) (by norm_num) (by norm_num) (by norm_num)
  · rw [hT4]
    exact byteSpec_mid 41 A4 v4 S4 (8 * 41 - 164 - 41) 41 21 29 hA4 hS4
      (by norm_num) (by norm_num)
  · rw [hT4]
    exact byteSpec_mid 41 A4 v4 S4 (8 * 41 - 164 - 41) 41 22 21 hA4 hS4
      (by norm_num) (by norm_num)
  · rw [hT4]
    exact byteSpec_mid 41 A4 v4 S4 (8 * 41 - 164 - 41) 41 23 13 hA4 hS4
      (by norm_num) (by norm_num)
  · rw [hT4]
    exact byteSpec_mid 41 A4 v4 S4 (8 * 41 - 164 - 41) 41 24 5 hA4 hS4
      (by norm_num) (by norm_num)
  · rw [hU4]
    exact byteSpec_bnd 41 B4 v4 v5 R4 (8 * 41 - 164 - 41 - 41) 25 5 3 38 31 7 41 hB4 hv4 hv5 hR4
      (by norm_num) (by norm_num) (by norm_num) (by norm_num) (by norm_num)
  · rw [hT5]
    exact byteSpec_mid 41 A5 v5 S5 (8 * 41 - 205 - 41) 41 26 30 hA5 hS5
      (by norm_num) (by norm_num)
  · rw [hT5]
    exact byteSpec_mid 41 A5 v5 S5 (8 * 41 - 205 - 41) 41 27 22 hA5 hS5
      (by norm_num) (by norm_num)
  · rw [hT5]
    exact byteSpec_mid 41 A5 v5 S5 (8 * 41 - 205 - 41) 41 28 14 hA5 hS5
      (by norm_num) (by norm_num)
  · rw [hT5]
    exact byteSpec_mid 41 A5 v5 S5 (8 * 41 - 205 - 41) 41 29 6 hA5 hS5
      (by norm_num) (by norm_num)
  · rw [hU5]
    exact byteSpec_bnd 41 B5 v5 v6 R5 (8 * 41 - 205 - 41 - 41) 30 6 2 39 63 3 41 hB5 hv5 hv6 hR5
      (by norm_num) (by norm_num) (by norm_num) (by norm_num) (by norm_num)
  · rw [hT6]
    exact byteSpec_mid 41 A6 v6 S6 (8 * 41 - 246 - 41) 41 31 31 hA6 hS6
      (by norm_num) (by norm_num)
  · rw [hT6]
    exact byteSpec_mid 41 A6 v6 S6 (8 * 41 - 246 - 41) 41 32 23 hA6 hS6
      (by norm_num) (by norm_num)
  · rw [hT6]
    exact byteSpec_mid 41 A6 v6 S6 (8 * 41 - 246 - 41) 41 33 15 hA6 hS6
      (by norm_num) (by norm_num)
  · rw [hT6]
    exact byteSpec_mid 41 A6 v6 S6 (8 * 41 - 246 - 41) 41 34 7 hA6 hS6
      (by norm_num) (by norm_num)
  · rw [hU6]
    exact byteSpec_bnd 41 B6 v6 v7 R6 (8 * 41 - 246 - 41 - 41) 35 7 1 40 127 1 41 hB6 hv6 hv7 hR6
      (by norm_num) (by norm_num) (by norm_num) (by norm_num) (by norm_num)
  · rw [hT7]
    exact byteSpec_mid 41 A7 v7 S7 (8 * 41 - 287 - 41) 41 36 32 hA7 hS7
      (by norm_num) (by norm_num)
  · rw [hT7]
    exact byteSpec_mid 41 A7 v7 S7 (8 * 41 - 287 - 41) 41 37 24 hA7 hS7
      (by norm_num) (by norm_num)
  · rw [hT7]
    exact byteSpec_mid 41 A7 v7 S7 (8 * 41 - 287 - 41) 41 38 16 hA7 hS7
      (by norm_num) (by norm_num)
  · rw [hT7]
    exact byteSpec_mid 41 A7 v7 S7 (8 * 41 - 287 - 41) 41 39 8 hA7 hS7
      (by norm_num) (by norm_num)
  · rw [hT7]
    exact byteSpec_mid0 41 A7 v7 S7 (8 * 41 - 287 - 41) 41 40 hA7 hS7
      (by norm_num) (by norm_num)

set_option maxRecDepth 16000 in
set_option maxHeartbeats 1000000 in
theorem c5_pack_eq_42 (v0 v1 v2 v3 v4 v5 v6 v7 : Nat) (hv0 : v0 < 2 ^ 42) (hv1 : v1 < 2 ^ 42) (hv2 : v2 < 2 ^ 42) (hv3 : v3 < 2 ^ 42) (hv4 : v4 < 2 ^ 42) (hv5 : v5 < 2 ^ 42) (hv6 : v6 < 2 ^ 42) (hv7 : v7 < 2 ^ 42) :
    (packSeq (BitPacker.new (List.replicate 42 0)) [(v0, 42), (v1, 42), (v2, 42), (v3, 42), (v4, 42), (v5, 42), (v6, 42), (v7, 42)]).bytes
      = pack_bits_42 v0 v1 v2 v3 v4 v5 v6 v7 := by
  have hvs : ∀ p ∈ ([(v0, 42), (v1, 42), (v2, 42), (v3, 42), (v4, 42), (v5, 42), (v6, 42), (v7, 42)] : List (Nat × Nat)), p.1 < 2 ^ p.2 := by
    intro p hp
    simp only [List.mem_cons, List.not_mem_nil, or_false] at hp
    rcases hp with rfl | rfl | rfl | rfl | rfl | rfl | rfl | rfl
    exacts [hv0, hv1, hv2, hv3, hv4, hv5, hv6, hv7]
  obtain ⟨-, -, -, ⟨hlen, hbytes⟩, -, -⟩ :=
    packSeq_inv 42 [(v0, 42), (v1, 42), (v2, 42), (v3, 42), (v4, 42), (v5, 42), (v6, 42), (v7, 42)] 0 0 _ hvs
      (by norm_num [List.map_cons, List.map_nil, List.sum_cons, List.sum_nil]) (packInv_init 42)
  have key : (packSeq (BitPacker.new (List.replicate 42 0)) [(v0, 42), (v1, 42), (v2, 42), (v3, 42), (v4, 42), (v5, 42), (v6, 42), (v7, 42)]).bytes
      = [ ByteSpec 42 (streamT 42 [(v0, 42), (v1, 42), (v2, 42), (v3, 42), (v4, 42), (v5, 42), (v6, 42), (v7, 42)] 0 0) 0,
          ByteSpec 42 (streamT 42 [(v0, 42), (v1, 42), (v2, 42), (v3, 42), (v4, 42), (v5, 42), (v6, 42), (v7, 42)] 0 0) 1,
          ByteSpec 42 (streamT 42 [(v0, 42), (v1, 42), (v2, 42), (v3, 42), (v4, 42), (v5, 42), (v6, 42), (v7, 42)] 0 0) 2,
          ByteSpec 42 (streamT 42 [(v0, 42), (v1, 42), (v2, 42), (v3, 42), (v4, 42), (v5, 42), (v6, 42), (v7, 42)] 0 0) 3,
          ByteSpec 42 (streamT 42 [(v0, 42), (v1, 42), (v2, 42), (v3, 42), (v4, 42), (v5, 42), (v6, 42), (v7, 42)] 0 0) 4,
          ByteSpec 42 (streamT 42 [(v0, 42), (v1, 42), (v2, 42), (v3, 42), (v4, 42), (v5, 42), (v6, 42), (v7, 42)] 0 0) 5,
          ByteSpec 42 (streamT 42 [(v0, 42), (v1, 42), (v2, 42), (v3, 42), (v4, 42), (v5, 42), (v6, 42), (v7, 42)] 0 0) 6,
          ByteSpec 42 (streamT 42 [(v0, 42), (v1, 42), (v2, 42), (v3, 42), (v4, 42), (v5, 42), (v6, 42), (v7, 42)] 0 0) 7,
          ByteSpec 42 (streamT 42 [(v0, 42), (v1, 42), (v2, 42), (v3, 42), (v4, 42), (v5, 42), (v6, 42), (v7, 42)] 0 0) 8,
          ByteSpec 42 (streamT 42 [(v0, 42), (v1, 42), (v2, 42), (v3, 42), (v4, 42), (v5, 42), (v6, 42), (v7, 42)] 0 0) 9,
          ByteSpec 42 (streamT 42 [(v0, 42), (v1, 42), (v2, 42), (v3, 42), (v4, 42), (v5, 42), (v6, 42), (v7, 42)] 0 0) 10,
          ByteSpec 42 (streamT 42 [(v0, 42), (v1, 42), (v2, 42), (v3, 42), (v4, 42), (v5, 42), (v6, 42), (v7, 42)] 0 0) 11,
          ByteSpec 42 (streamT 42 [(v0, 42), (v1, 42), (v2, 42), (v3, 42), (v4, 42), (v5, 42), (v6, 42), (v7, 42)] 0 0) 12,
          ByteSpec 42 (streamT 42 [(v0, 42), (v1, 42), (v2, 42), (v3, 42), (v4, 42), (v5, 42), (v6, 42), (v7, 42)] 0 0) 13,
          ByteSpec 42 (streamT 42 [(v0, 42), (v1, 42), (v2, 42), (v3, 42), (v4, 42), (v5, 42), (v6, 42), (v7, 42)] 0 0) 14,
          ByteSpec 42 (streamT 42 [(v0, 42), (v1, 42), (v2, 42), (v3, 42), (v4, 42), (v5, 42), (v6, 42), (v7, 42)] 0 0) 15,
          ByteSpec 42 (streamT 42 [(v0, 42), (v1, 42), (v2, 42), (v3, 42), (v4, 42), (v5, 42), (v6, 42), (v7, 42)] 0 0) 16,
          ByteSpec 42 (streamT 42 [(v0, 42), (v1, 42), (v2, 42), (v3, 42), (v4, 42), (v5, 42), (v6, 42), (v7, 42)] 0 0) 17,
          ByteSpec 42 (streamT 42 [(v0, 42), (v1, 42), (v2, 42), (v3, 42), (v4, 42), (v5, 42), (v6, 42), (v7, 42)] 0 0) 18,
          ByteSpec 42 (streamT 42 [(v0, 42), (v1, 42), (v2, 42), (v3, 42), (v4, 42), (v5, 42), (v6, 42), (v7, 42)] 0 0) 19,
          ByteSpec 42 (streamT 42 [(v0, 42), (v1, 42), (v2, 42), (v3, 42), (v4, 42), (v5, 42), (v6, 42), (v7, 42)] 0 0) 20,
          ByteSpec 42 (streamT 42 [(v0, 42), (v1, 42), (v2, 42), (v3, 42), (v4, 42), (v5, 42), (v6, 42), (v7, 42)] 0 0) 21,
          ByteSpec 42 (streamT 42 [(v0, 42), (v1, 42), (v2, 42), (v3, 42), (v4, 42), (v5, 42), (v6, 42), (v7, 42)] 0 0) 22,
          ByteSpec 42 (streamT 42 [(v0, 42), (v1, 42), (v2, 42), (v3, 42), (v4, 42), (v5, 42), (v6, 42), (v7, 42)] 0 0) 23,
          ByteSpec 42 (streamT 42 [(v0, 42), (v1, 42), (v2, 42), (v3, 42), (v4, 42), (v5, 42), (v6, 42), (v7, 42)] 0 0) 24,
          ByteSpec 42 (streamT 42 [(v0, 42), (v1, 42), (v2, 42), (v3, 42), (v4, 42), (v5, 42), (v6, 42), (v7, 42)] 0 0) 25,
          ByteSpec 42 (streamT 42 [(v0, 42), (v1, 42), (v2, 42), (v3, 42), (v4, 42), (v5, 42), (v6, 42), (v7, 42)] 0 0) 26,
          ByteSpec 42 (streamT 42 [(v0, 42), (v1, 42), (v2, 42), (v3, 42), (v4, 42), (v5, 42), (v6, 42), (v7, 42)] 0 0) 27,
          ByteSpec 42 (streamT 42 [(v0, 42), (v1, 42), (v2, 42), (v3, 42), (v4, 42), (v5, 42), (v6, 42), (v7, 42)] 0 0) 28,
          ByteSpec 42 (streamT 42 [(v0, 42), (v1, 42), (v2, 42), (v3, 42), (v4, 42), (v5, 42), (v6, 42), (v7, 42)] 0 0) 29,
          ByteSpec 42 (streamT 42 [(v0, 42), (v1, 42), (v2, 42), (v3, 42), (v4, 42), (v5, 42), (v6, 42), (v7, 42)] 0 0) 30,
          ByteSpec 42 (streamT 42 [(v0, 42), (v1, 42), (v2, 42), (v3, 42), (v4, 42), (v5, 42), (v6, 42), (v7, 42)] 0 0) 31,
          ByteSpec 42 (streamT 42 [(v0, 42), (v1, 42), (v2, 42), (v3, 42), (v4, 42), (v5, 42), (v6, 42), (v7, 42)] 0 0) 32,
          ByteSpec 42 (streamT 42 [(v0, 42), (v1, 42), (v2, 42), (v3, 42), (v4, 42), (v5, 42), (v6, 42), (v7, 42)] 0 0) 33,
          ByteSpec 42 (streamT 42 [(v0, 42), (v1, 42), (v2, 42), (v3, 42), (v4, 42), (v5, 42), (v6, 42), (v7, 42)] 0 0) 34,
          ByteSpec 42 (streamT 42 [(v0, 42), (v1, 42), (v2, 42), (v3, 42), (v4, 42), (v5, 42), (v6, 42), (v7, 42)] 0 0) 35,
          ByteSpec 42 (streamT 42 [(v0, 42), (v1, 42), (v2, 42), (v3, 42), (v4, 42), (v5, 42), (v6, 42), (v7, 42)] 0 0) 36,
          ByteSpec 42 (streamT 42 [(v0, 42), (v1, 42), (v2, 42), (v3, 42), (v4, 42), (v5, 42), (v6, 42), (v7, 42)] 0 0) 37,
          ByteSpec 42 (streamT 42 [(v0, 42), (v1, 42), (v2, 42), (v3, 42), (v4, 42), (v5, 42), (v6, 42), (v7, 42)] 0 0) 38,
          ByteSpec 42 (streamT 42 [(v0, 42), (v1, 42), (v2, 42), (v3, 42), (v4, 42), (v5, 42), (v6, 42), (v7, 42)] 0 0) 39,
          ByteSpec 42 (streamT 42 [(v0, 42), (v1, 42), (v2, 42), (v3, 42), (v4, 42), (v5, 42), (v6, 42), (v7, 42)] 0 0) 40,
          ByteSpec 42 (streamT 42 [(v0, 42), (v1, 42), (v2, 42), (v3, 42), (v4, 42), (v5, 42), (v6, 42), (v7, 42)] 0 0) 41 ] :=
    (list_eq_map_range_of_getD _ _ 42 hlen hbytes).trans (by rfl)
  have key2 : pack_bits_42 v0 v1 v2 v3 v4 v5 v6 v7
      = [ u8 (((v0 >>> 34) &&& 0xff)),
          u8 (((v0 >>> 26) &&& 0xff)),
          u8 (((v0 >>> 18) &&& 0xff)),
          u8 (((v0 >>> 10) &&& 0xff)),
          u8 (((v0 >>> 2) &&& 0xff)),
          u8 (((((v0) &&& 0x3) <<< 6) ||| ((v1 >>> 36) &&& 0x3f))),
          u8 (((v1 >>> 28) &&& 0xff)),
          u8 (((v1 >>> 20) &&& 0xff)),
          u8 (((v1 >>> 12) &&& 0xff)),
          u8 (((v1 >>> 4) &&& 0xff)),
          u8 (((((v1) &&& 0xf) <<< 4) ||| ((v2 >>> 38) &&& 0xf))),
          u8 (((v2 >>> 30) &&& 0xff)),
          u8 (((v2 >>> 22) &&& 0xff)),
          u8 (((v2 >>> 14) &&& 0xff)),
          u8 (((v2 >>> 6) &&& 0xff)),
          u8 (((((v2) &&& 0x3f) <<< 2) ||| ((v3 >>> 40) &&& 0x3))),
          u8 (((v3 >>> 32) &&& 0xff)),
          u8 (((v3 >>> 24) &&& 0xff)),
          u8 (((v3 >>> 16) &&& 0xff)),
          u8 (((v3 >>> 8) &&& 0xff)),
          u8 (((v3) &&& 0xff)),
          u8 (((v4 >>> 34) &&& 0xff)),
          u8 (((v4 >>> 26) &&& 0xff)),
          u8 (((v4 >>> 18) &&& 0xff)),
          u8 (((v4 >>> 10) &&& 0xff)),
          u8 (((v4 >>> 2) &&& 0xff)),
          u8 (((((v4) &&& 0x3) <<< 6) ||| ((v5 >>> 36) &&& 0x3f))),
          u8 (((v5 >>> 28) &&& 0xff)),
          u8 (((v5 >>> 20) &&& 0xff)),
          u8 (((v5 >>> 12) &&& 0xff)),
          u8 (((v5 >>> 4) &&& 0xff)),
          u8 (((((v5) &&& 0xf) <<< 4) ||| ((v6 >>> 38) &&& 0xf))),
          u8 (((v6 >>> 30) &&& 0xff)),
          u8 (((v6 >>> 22) &&& 0xff)),
          u8 (((v6 >>> 14) &&& 0xff)),
          u8 (((v6 >>> 6) &&& 0xff)),
          u8 (((((v6) &&& 0x3f) <<< 2) ||| ((v7 >>> 40) &&& 0x3))),
          u8 (((v7 >>> 32) &&& 0xff)),
          u8 (((v7 >>> 24) &&& 0xff)),
          u8 (((v7 >>> 16) &&& 0xff)),
          u8 (((v7 >>> 8) &&& 0xff)),
          u8 (((v7) &&& 0xff)) ] := rfl
  obtain ⟨A0, S0, hT0, hA0, hS0⟩ :=
    streamT_decomp 42 [(v0, 42), (v1, 42), (v2, 42), (v3, 42), (v4, 42), (v5, 42), (v6, 42), (v7, 42)] [] [(v1, 42), (v2, 42), (v3, 42), (v4, 42), (v5, 42), (v6, 42), (v7, 42)] v0 42 0 rfl rfl hvs
      (by norm_num [List.map_cons, List.map_nil, List.sum_cons, List.sum_nil])
  obtain ⟨A1, S1, hT1, hA1, hS1⟩ :=
    streamT_decomp 42 [(v0, 42), (v1, 42), (v2, 42), (v3, 42), (v4, 42), (v5, 42), (v6, 42), (v7, 42)] [(v0, 42)] [(v2, 42), (v3, 42), (v4, 42), (v5, 42), (v6, 42), (v7, 42)] v1 42 42 rfl rfl hvs
      (by norm_num [List.map_cons, List.map_nil, List.sum_cons, List.sum_nil])
  obtain ⟨A2, S2, hT2, hA2, hS2⟩ :=
    streamT_decomp 42 [(v0, 42), (v1, 42), (v2, 42), (v3, 42), (v4, 42), (v5, 42), (v6, 42), (v7, 42)] [(v0, 42), (v1, 42)] [(v3, 42), (v4, 42), (v5, 42), (v6, 42), (v7, 42)] v2 42 84 rfl rfl hvs
      (by norm_num [List.map_cons, List.map_nil, List.sum_cons, List.sum_nil])
  obtain ⟨A3, S3, hT3, hA3, hS3⟩ :=
    streamT_decomp 42 [(v0, 42), (v1, 42), (v2, 42), (v3, 42), (v4, 42), (v5, 42), (v6, 42), (v7, 42)] [(v0, 42), (v1, 42), (v2, 42)] [(v4, 42), (v5, 42), (v6, 42), (v7, 42)] v3 42 126 rfl rfl hvs
      (by norm_num [List.map_cons, List.map_nil, List.sum_cons, List.sum_nil])
  obtain ⟨A4, S4, hT4, hA4, hS4⟩ :=
    streamT_decomp 42 [(v0, 42), (v1, 42), (v2, 42), (v3, 42), (v4, 42), (v5, 42), (v6, 42), (v7, 42)] [(v0, 42), (v1, 42), (v2, 42), (v3, 42)] [(v5, 42), (v6, 42), (v7, 42)] v4 42 168 rfl rfl hvs
      (by norm_num [List.map_cons, List.map_nil, List.sum_cons, List.sum_nil])
  obtain ⟨A5, S5, hT5, hA5, hS5⟩ :=
    streamT_decomp 42 [(v0, 42), (v1, 42), (v2, 42), (v3, 42), (v4, 42), (v5, 42), (v6, 42), (v7, 42)] [(v0, 42), (v1, 42), (v2, 42), (v3, 42), (v4, 42)] [(v6, 42), (v7, 42)] v5 42 210 rfl rfl hvs
      (by norm_num [List.map_cons, List.map_nil, List.sum_cons, List.sum_nil])
  obtain ⟨A6, S6, hT6, hA6, hS6⟩ :=
    streamT_decomp 42 [(v0, 42), (v1, 42), (v2, 42), (v3, 42), (v4, 42), (v5, 42), (v6, 42), (v7, 42)] [(v0, 42), (v1, 42), (v2, 42), (v3, 42), (v4, 42), (v5, 42)] [(v7, 42)] v6 42 252 rfl rfl hvs
      (by norm_num [List.map_cons, List.map_nil, List.sum_cons, List.sum_nil])
  obtain ⟨A7, S7, hT7, hA7, hS7⟩ :=
    streamT_decomp 42 [(v0, 42), (v1, 42), (v2, 42), (v3, 42), (v4, 42), (v5, 42), (v6, 42), (v7, 42)] [(v0, 42), (v1, 42), (v2, 42), (v3, 42), (v4, 42), (v5, 42), (v6, 42)] [] v7 42 294 rfl rfl hvs
      (by norm_num [List.map_cons, List.map_nil, List.sum_cons, List.sum_nil])
  obtain ⟨B0, R0, hU0, hB0, hR0⟩ :=
    streamT_decomp2 42 [(v0, 42), (v1, 42), (v2, 42), (v3, 42), (v4, 42), (v5, 42), (v6, 42), (v7, 42)] [] [(v2, 42), (v3, 42), (v4, 42), (v5, 42), (v6, 42), (v7, 42)] v0 v1 42 42 0 rfl rfl hvs
      (by norm_num [List.map_cons, List.map_nil, List.sum_cons, List.sum_nil])
  obtain ⟨B1, R1, hU1, hB1, hR1⟩ :=
    streamT_decomp2 42 [(v0, 42), (v1, 42), (v2, 42), (v3, 42), (v4, 42), (v5, 42), (v6, 42), (v7, 42)] [(v0, 42)] [(v3, 42), (v4, 42), (v5, 42), (v6, 42), (v7, 42)] v1 v2 42 42 42 rfl rfl hvs
      (by norm_num [List.map_cons, List.map_nil, List.sum_cons, List.sum_nil])
  obtain ⟨B2, R2, hU2, hB2, hR2⟩ :=
    streamT_decomp2 42 [(v0, 42), (v1, 42), (v2, 42), (v3, 42), (v4, 42), (v5, 42), (v6, 42), (v7, 42)] [(v0, 42), (v1, 42)] [(v4, 42), (v5, 42), (v6, 42), (v7, 42)] v2 v3 42 42 84 rfl rfl hvs
      (by norm_num [List.map_cons, List.map_nil, List.sum_cons, List.sum_nil])
  obtain ⟨B4, R4, hU4, hB4, hR4⟩ :=
    streamT_decomp2 42 [(v0, 42), (v1, 42), (v2, 42), (v3, 42), (v4, 42), (v5, 42), (v6, 42), (v7, 42)] [(v0, 42), (v1, 42), (v2, 42), (v3, 42)] [(v6, 42), (v7, 42)] v4 v5 42 42 168 rfl rfl hvs
      (by norm_num [List.map_cons, List.map_nil, List.sum_cons, List.sum_nil])
  obtain ⟨B5, R5, hU5, hB5, hR5⟩ :=
    streamT_decomp2 42 [(v0, 42), (v1, 42), (v2, 42), (v3, 42), (v4, 42), (v5, 42), (v6, 42), (v7, 42)] [(v0, 42), (v1, 42), (v2, 42), (v3, 42), (v4, 42)] [(v7, 42)] v5 v6 42 42 210 rfl rfl hvs
      (by norm_num [List.map_cons, List.map_nil, List.sum_cons, List.sum_nil])
  obtain ⟨B6, R6, hU6, hB6, hR6⟩ :=
    streamT_decomp2 42 [(v0, 42), (v1, 42), (v2, 42), (v3, 42), (v4, 42), (v5, 42), (v6, 42), (v7, 42)] [(v0, 42), (v1, 42), (v2, 42), (v3, 42), (v4, 42), (v5, 42)] [] v6 v7 42 42 252 rfl rfl hvs
      (by norm_num [List.map_cons, List.map_nil, List.sum_cons, List.sum_nil])
  rw [key, key2]
  simp only [List.cons.injEq]
  refine ⟨?_, ?_, ?_, ?_, ?_, ?_, ?_, ?_, ?_, ?_, ?_, ?_, ?_, ?_, ?_, ?_, ?_, ?_, ?_, ?_, ?_, ?_, ?_, ?_, ?_, ?_, ?_, ?_, ?_, ?_, ?_, ?_, ?_, ?_, ?_, ?_, ?_, ?_, ?_, ?_, ?_, ?_, trivial⟩
  · rw [hT0]
    exact byteSpec_mid 42 A0 v0 S0 (8 * 42 - 0 - 42) 42 0 34 hA0 hS0
      (by norm_num) (by norm_num)
  · rw [hT0]
    exact byteSpec_mid 42 A0 v0 S0 (8 * 42 - 0 - 42) 42 1 26 hA0 hS0
      (by norm_num) (by norm_num)
  · rw [hT0]
    exact byteSpec_mid 42 A0 v0 S0 (8 * 42 - 0 - 42) 42 2 18 hA0 hS0
      (by norm_num) (by norm_num)
  · rw [hT0]
    exact byteSpec_mid 42 A0 v0 S0 (8 * 42 - 0 - 42) 42 3 10 hA0 hS0
      (by norm_num) (by norm_num)
  · rw [hT0]
    exact byteSpec_mid 42 A0 v0 S0 (8 * 42 - 0 - 42) 42 4 2 hA0 hS0
      (by norm_num) (by norm_num)
  · rw [hU0]
    exact byteSpec_bnd 42 B0 v0 v1 R0 (8 * 42 - 0 - 42 - 42) 5 2 6 36 3 63 42 hB0 hv0 hv1 hR0
      (by norm_num) (by norm_num) (by norm_num) (by norm_num) (by norm_num)
  · rw [hT1]
    exact byteSpec_mid 42 A1 v1 S1 (8 * 42 - 42 - 42) 42 6 28 hA1 hS1
      (by norm_num) (by norm_num)
  · rw [hT1]
    exact byteSpec_mid 42 A1 v1 S1 (8 * 42 - 42 - 42) 42 7 20 hA1 hS1
      (by norm_num) (by norm_num)
  · rw [hT1]
    exact byteSpec_mid 42 A1 v1 S1 (8 * 42 - 42 - 42) 42 8 12 hA1 hS1
      (by norm_num) (by norm_num)
  · rw [hT1]
    exact byteSpec_mid 42 A1 v1 S1 (8 * 42 - 42 - 42) 42 9 4 hA1 hS1
      (by norm_num) (by norm_num)
  · rw [hU1]
    exact byteSpec_bnd 42 B1 v1 v2 R1 (8 * 42 - 42 - 42 - 42) 10 4 4 38 15 15 42 hB1 hv1 hv2 hR1
      (by norm_num) (by norm_num) (by norm_num) (by norm_num) (by norm_num)
  · rw [hT2]
    exact byteSpec_mid 42 A2 v2 S2 (8 * 42 - 84 - 42) 42 11 30 hA2 hS2
      (by norm_num) (by norm_num)
  · rw [hT2]
    exact byteSpec_mid 42 A2 v2 S2 (8 * 42 - 84 - 42) 42 12 22 hA2 hS2
      (by norm_num) (by norm_num)
  · rw [hT2]
    exact byteSpec_mid 42 A2 v2 S2 (8 * 42 - 84 - 42) 42 13 14 hA2 hS2
      (by norm_num) (by norm_num)
  · rw [hT2]
    exact byteSpec_mid 42 A2 v2 S2 (8 * 42 - 84 - 42) 42 14 6 hA2 hS2
      (by norm_num) (by norm_num)
  · rw [hU2]
    exact byteSpec_bnd 42 B2 v2 v3 R2 (8 * 42 - 84 - 42 - 42) 15 6 2 40 63 3 42 hB2 hv2 hv3 hR2
      (by norm_num) (by norm_num) (by norm_num) (by norm_num) (by norm_num)
  · rw [hT3]
    exact byteSpec_mid 42 A3 v3 S3 (8 * 42 - 126 - 42) 42 16 32 hA3 hS3
      (by norm_num) (by norm_num)
  · rw [hT3]
    exact byteSpec_mid 42 A3 v3 S3 (8 * 42 - 126 - 42) 42 17 24 hA3 hS3
      (by norm_num) (by norm_num)
  · rw [hT3]
    exact byteSpec_mid 42 A3 v3 S3 (8 * 42 - 126 - 42) 42 18 16 hA3 hS3
      (by norm_num) (by norm_num)
  · rw [hT3]
    exact byteSpec_mid 42 A3 v3 S3 (8 * 42 - 126 - 42) 42 19 8 hA3 hS3
      (by norm_num) (by norm_num)
  · rw [hT3]
    exact byteSpec_mid0 42 A3 v3 S3 (8 * 42 - 126 - 42) 42 20 hA3 hS3
      (by norm_num) (by norm_num)
  · rw [hT4]
    exact byteSpec_mid 42 A4 v4 S4 (8 * 42 - 168 - 42) 42 21 34 hA4 hS4
      (by norm_num) (by norm_num)
  · rw [hT4]
    exact byteSpec_mid 42 A4 v4 S4 (8 * 42 - 168 - 42) 42 22 26 hA4 hS4
      (by norm_num) (by norm_num)
  · rw [hT4]
    exact byteSpec_mid 42 A4 v4 S4 (8 * 42 - 168 - 42) 42 23 18 hA4 hS4
      (by norm_num) (by norm_num)
  · rw [hT4]
    exact byteSpec_mid 42 A4 v4 S4 (8 * 42 - 168 - 42) 42 24 10 hA4 hS4
      (by norm_num) (by norm_num)
  · rw [hT4]
    exact byteSpec_mid 42 A4 v4 S4 (8 * 42 - 168 - 42) 42 25 2 hA4 hS4
      (by norm_num) (by norm_num)
  · rw [hU4]
    exact byteSpec_bnd 42 B4 v4 v5 R4 (8 * 42 - 168 - 42 - 42) 26 2 6 36 3 63 42 hB4 hv4 hv5 hR4
      (by norm_num) (by norm_num) (by norm_num) (by norm_num) (by norm_num)
  · rw [hT5]
    exact byteSpec_mid 42 A5 v5 S5 (8 * 42 - 210 - 42) 42 27 28 hA5 hS5
      (by norm_num) (by norm_num)
  · rw [hT5]
    exact byteSpec_mid 42 A5 v5 S5 (8 * 42 - 210 - 42) 42 28 20 hA5 hS5
      (by norm_num) (by norm_num)
  · rw [hT5]
    exact byteSpec_mid 42 A5 v5 S5 (8 * 42 - 210 - 42) 42 29 12 hA5 hS5
      (by norm_num) (by norm_num)
  · rw [hT5]
    exact byteSpec_mid 42 A5 v5 S5 (8 * 42 - 210 - 42) 42 30 4 hA5 hS5
      (by norm_num) (by norm_num)
  · rw [hU5]
    exact byteSpec_bnd 42 B5 v5 v6 R5 (8 * 42 - 210 - 42 - 42) 31 4 4 38 15 15 42 hB5 hv5 hv6 hR5
      (by norm_num) (by norm_num) (by norm_num) (by norm_num) (by norm_num)
  · rw [hT6]
    exact byteSpec_mid 42 A6 v6 S6 (8 * 42 - 252 - 42) 42 32 30 hA6 hS6
      (by norm_num) (by norm_num)
  · rw [hT6]
    exact byteSpec_mid 42 A6 v6 S6 (8 * 42 - 252 - 42) 42 33 22 hA6 hS6
      (by norm_num) (by norm_num)
  · rw [hT6]
    exact byteSpec_mid 42 A6 v6 S6 (8 * 42 - 252 - 42) 42 34 14 hA6 hS6
      (by norm_num) (by norm_num)
  · rw [hT6]
    exact byteSpec_mid 42 A6 v6 S6 (8 * 42 - 252 - 42) 42 35 6 hA6 hS6
      (by norm_num) (by norm_num)
  · rw [hU6]
    exact byteSpec_bnd 42 B6 v6 v7 R6 (8 * 42 - 252 - 42 - 42) 36 6 2 40 63 3 42 hB6 hv6 hv7 hR6
      (by norm_num) (by norm_num) (by norm_num) (by norm_num) (by norm_num)
  · rw [hT7]
    exact byteSpec_mid 42 A7 v7 S7 (8 * 42 - 294 - 42) 42 37 32 hA7 hS7
      (by norm_num) (by norm_num)
  · rw [hT7]
    exact byteSpec_mid 42 A7 v7 S7 (8 * 42 - 294 - 42) 42 38 24 hA7 hS7
      (by norm_num) (by norm_num)
  · rw [hT7]
    exact byteSpec_mid 42 A7 v7 S7 (8 * 42 - 294 - 42) 42 39 16 hA7 hS7
      (by norm_num) (by norm_num)
  · rw [hT7]
    exact byteSpec_mid 42 A7 v7 S7 (8 * 42 - 294 - 42) 42 40 8 hA7 hS7
      (by norm_num) (by norm_num)
  · rw [hT7]
    exact byteSpec_mid0 42 A7 v7 S7 (8 * 42 - 294 - 42) 42 41 hA7 hS7
      (by norm_num) (by norm_num)

set_option maxRecDepth 16000 in
set_option maxHeartbeats 1000000 in
theorem c5_pack_eq_43 (v0 v1 v2 v3 v4 v5 v6 v7 : Nat) (hv0 : v0 < 2 ^ 43) (hv1 : v1 < 2 ^ 43) (hv2 : v2 < 2 ^ 43) (hv3 : v3 < 2 ^ 43) (hv4 : v4 < 2 ^ 43) (hv5 : v5 < 2 ^ 43) (hv6 : v6 < 2 ^ 43) (hv7 : v7 < 2 ^ 43) :
    (packSeq (BitPacker.new (List.replicate 43 0)) [(v0, 43), (v1, 43), (v2, 43), (v3, 43), (v4, 43), (v5, 43), (v6, 43), (v7, 43)]).bytes
      = pack_bits_43 v0 v1 v2 v3 v4 v5 v6 v7 := by
  have hvs : ∀ p ∈ ([(v0, 43), (v1, 43), (v2, 43), (v3, 43), (v4, 43), (v5, 43), (v6, 43), (v7, 43)] : List (Nat × Nat)), p.1 < 2 ^ p.2 := by
    intro p hp
    simp only [List.mem_cons, List.not_mem_nil, or_false] at hp
    rcases hp with rfl | rfl | rfl | rfl | rfl | rfl | rfl | rfl
    exacts [hv0, hv1, hv2, hv3, hv4, hv5, hv6, hv7]
  obtain ⟨-, -, -, ⟨hlen, hbytes⟩, -, -⟩ :=
    packSeq_inv 43 [(v0, 43), (v1, 43), (v2, 43), (v3, 43), (v4, 43), (v5, 43), (v6, 43), (v7, 43)] 0 0 _ hvs
      (by norm_num [List.map_cons, List.map_nil, List.sum_cons, List.sum_nil]) (packInv_init 43)
  have key : (packSeq (BitPacker.new (List.replicate 43 0)) [(v0, 43), (v1, 43), (v2, 43), (v3, 43), (v4, 43), (v5, 43), (v6, 43), (v7, 43)]).bytes
      = [ ByteSpec 43 (streamT 43 [(v0, 43), (v1, 43), (v2, 43), (v3, 43), (v4, 43), (v5, 43), (v6, 43), (v7, 43)] 0 0) 0,
          ByteSpec 43 (streamT 43 [(v0, 43), (v1, 43), (v2, 43), (v3, 43), (v4, 43), (v5, 43), (v6, 43), (v7, 43)] 0 0) 1,
          ByteSpec 43 (streamT 43 [(v0, 43), (v1, 43), (v2, 43), (v3, 43), (v4, 43), (v5, 43), (v6, 43), (v7, 43)] 0 0) 2,
          ByteSpec 43 (streamT 43 [(v0, 43), (v1, 43), (v2, 43), (v3, 43), (v4, 43), (v5, 43), (v6, 43), (v7, 43)] 0 0) 3,
          ByteSpec 43 (streamT 43 [(v0, 43), (v1, 43), (v2, 43), (v3, 43), (v4, 43), (v5, 43), (v6, 43), (v7, 43)] 0 0) 4,
          ByteSpec 43 (streamT 43 [(v0, 43), (v1, 43), (v2, 43), (v3, 43), (v4, 43), (v5, 43), (v6, 43), (v7, 43)] 0 0) 5,
          ByteSpec 43 (streamT 43 [(v0, 43), (v1, 43), (v2, 43), (v3, 43), (v4, 43), (v5, 43), (v6, 43), (v7, 43)] 0 0) 6,
          ByteSpec 43 (streamT 43 [(v0, 43), (v1, 43), (v2, 43), (v3, 43), (v4, 43), (v5, 43), (v6, 43), (v7, 43)] 0 0) 7,
          ByteSpec 43 (streamT 43 [(v0, 43), (v1, 43), (v2, 43), (v3, 43), (v4, 43), (v5, 43), (v6, 43), (v7, 43)] 0 0) 8,
          ByteSpec 43 (streamT 43 [(v0, 43), (v1, 43), (v2, 43), (v3, 43), (v4, 43), (v5, 43), (v6, 43), (v7, 43)] 0 0) 9,
          ByteSpec 43 (streamT 43 [(v0, 43), (v1, 43), (v2, 43), (v3, 43), (v4, 43), (v5, 43), (v6, 43), (v7, 43)] 0 0) 10,
          ByteSpec 43 (streamT 43 [(v0, 43), (v1, 43), (v2, 43), (v3, 43), (v4, 43), (v5, 43), (v6, 43), (v7, 43)] 0 0) 11,
          ByteSpec 43 (streamT 43 [(v0, 43), (v1, 43), (v2, 43), (v3, 43), (v4, 43), (v5, 43), (v6, 43), (v7, 43)] 0 0) 12,
          ByteSpec 43 (streamT 43 [(v0, 43), (v1, 43), (v2, 43), (v3, 43), (v4, 43), (v5, 43), (v6, 43), (v7, 43)] 0 0) 13,
          ByteSpec 43 (streamT 43 [(v0, 43), (v1, 43), (v2, 43), (v3, 43), (v4, 43), (v5, 43), (v6, 43), (v7, 43)] 0 0) 14,
          ByteSpec 43 (streamT 43 [(v0, 43), (v1, 43), (v2, 43), (v3, 43), (v4, 43), (v5, 43), (v6, 43), (v7, 43)] 0 0) 15,
          ByteSpec 43 (streamT 43 [(v0, 43), (v1, 43), (v2, 43), (v3, 43), (v4, 43), (v5, 43), (v6, 43), (v7, 43)] 0 0) 16,
          ByteSpec 43 (streamT 43 [(v0, 43), (v1, 43), (v2, 43), (v3, 43), (v4, 43), (v5, 43), (v6, 43), (v7, 43)] 0 0) 17,
          ByteSpec 43 (streamT 43 [(v0, 43), (v1, 43), (v2, 43), (v3, 43), (v4, 43), (v5, 43), (v6, 43), (v7, 43)] 0 0) 18,
          ByteSpec 43 (streamT 43 [(v0, 43), (v1, 43), (v2, 43), (v3, 43), (v4, 43), (v5, 43), (v6, 43), (v7, 43)] 0 0) 19,
          ByteSpec 43 (streamT 43 [(v0, 43), (v1, 43), (v2, 43), (v3, 43), (v4, 43), (v5, 43), (v6, 43), (v7, 43)] 0 0) 20,
          ByteSpec 43 (streamT 43 [(v0, 43), (v1, 43), (v2, 43), (v3, 43), (v4, 43), (v5, 43), (v6, 43), (v7, 43)] 0 0) 21,
          ByteSpec 43 (streamT 43 [(v0, 43), (v1, 43), (v2, 43), (v3, 43), (v4, 43), (v5, 43), (v6, 43), (v7, 43)] 0 0) 22,
          ByteSpec 43 (streamT 43 [(v0, 43), (v1, 43), (v2, 43), (v3, 43), (v4, 43), (v5, 43), (v6, 43), (v7, 43)] 0 0) 23,
          ByteSpec 43 (streamT 43 [(v0, 43), (v1, 43), (v2, 43), (v3, 43), (v4, 43), (v5, 43), (v6, 43), (v7, 43)] 0 0) 24,
          ByteSpec 43 (streamT 43 [(v0, 43), (v1, 43), (v2, 43), (v3, 43), (v4, 43), (v5, 43), (v6, 43), (v7, 43)] 0 0) 25,
          ByteSpec 43 (streamT 43 [(v0, 43), (v1, 43), (v2, 43), (v3, 43), (v4, 43), (v5, 43), (v6, 43), (v7, 43)] 0 0) 26,
          ByteSpec 43 (streamT 43 [(v0, 43), (v1, 43), (v2, 43), (v3, 43), (v4, 43), (v5, 43), (v6, 43), (v7, 43)] 0 0) 27,
          ByteSpec 43 (streamT 43 [(v0, 43), (v1, 43), (v2, 43), (v3, 43), (v4, 43), (v5, 43), (v6, 43), (v7, 43)] 0 0) 28,
          ByteSpec 43 (streamT 43 [(v0, 43), (v1, 43), (v2, 43), (v3, 43), (v4, 43), (v5, 43), (v6, 43), (v7, 43)] 0 0) 29,
          ByteSpec 43 (streamT 43 [(v0, 43), (v1, 43), (v2, 43), (v3, 43), (v4, 43), (v5, 43), (v6, 43), (v7, 43)] 0 0) 30,
          ByteSpec 43 (streamT 43 [(v0, 43), (v1, 43), (v2, 43), (v3, 43), (v4, 43), (v5, 43), (v6, 43), (v7, 43)] 0 0) 31,
          ByteSpec 43 (streamT 43 [(v0, 43), (v1, 43), (v2, 43), (v3, 43), (v4, 43), (v5, 43), (v6, 43), (v7, 43)] 0 0) 32,
          ByteSpec 43 (streamT 43 [(v0, 43), (v1, 43), (v2, 43), (v3, 43), (v4, 43), (v5, 43), (v6, 43), (v7, 43)] 0 0) 33,
          ByteSpec 43 (streamT 43 [(v0, 43), (v1, 43), (v2, 43), (v3, 43), (v4, 43), (v5, 43), (v6, 43), (v7, 43)] 0 0) 34,
          ByteSpec 43 (streamT 43 [(v0, 43), (v1, 43), (v2, 43), (v3, 43), (v4, 43), (v5, 43), (v6, 43), (v7, 43)] 0 0) 35,
          ByteSpec 43 (streamT 43 [(v0, 43), (v1, 43), (v2, 43), (v3, 43), (v4, 43), (v5, 43), (v6, 43), (v7, 43)] 0 0) 36,
          ByteSpec 43 (streamT 43 [(v0, 43), (v1, 43), (v2, 43), (v3, 43), (v4, 43), (v5, 43), (v6, 43), (v7, 43)] 0 0) 37,
          ByteSpec 43 (streamT 43 [(v0, 43), (v1, 43), (v2, 43), (v3, 43), (v4, 43), (v5, 43), (v6, 43), (v7, 43)] 0 0) 38,
          ByteSpec 43 (streamT 43 [(v0, 43), (v1, 43), (v2, 43), (v3, 43), (v4, 43), (v5, 43), (v6, 43), (v7, 43)] 0 0) 39,
          ByteSpec 43 (streamT 43 [(v0, 43), (v1, 43), (v2, 43), (v3, 43), (v4, 43), (v5, 43), (v6, 43), (v7, 43)] 0 0) 40,
          ByteSpec 43 (streamT 43 [(v0, 43), (v1, 43), (v2, 43), (v3, 43), (v4, 43), (v5, 43), (v6, 43), (v7, 43)] 0 0) 41,
          ByteSpec 43 (streamT 43 [(v0, 43), (v1, 43), (v2, 43), (v3, 43), (v4, 43), (v5, 43), (v6, 43), (v7, 43)] 0 0) 42 ] :=
    (list_eq_map_range_of_getD _ _ 43 hlen hbytes).trans (by rfl)
  have key2 : pack_bits_43 v0 v1 v2 v3 v4 v5 v6 v7
      = [ u8 (((v0 >>> 35) &&& 0xff)),
          u8 (((v0 >>> 27) &&& 0xff)),
          u8 (((v0 >>> 19) &&& 0xff)),
          u8 (((v0 >>> 11) &&& 0xff)),
          u8 (((v0 >>> 3) &&& 0xff)),
          u8 (((((v0) &&& 0x7) <<< 5) ||| ((v1 >>> 38) &&& 0x1f))),
          u8 (((v1 >>> 30) &&& 0xff)),
          u8 (((v1 >>> 22) &&& 0xff)),
          u8 (((v1 >>> 14) &&& 0xff)),
          u8 (((v1 >>> 6) &&& 0xff)),
          u8 (((((v1) &&& 0x3f) <<< 2) ||| ((v2 >>> 41) &&& 0x3))),
          u8 (((v2 >>> 33) &&& 0xff)),
          u8 (((v2 >>> 25) &&& 0xff)),
          u8 (((v2 >>> 17) &&& 0xff)),
          u8 (((v2 >>> 9) &&& 0xff)),
          u8 (((v2 >>> 1) &&& 0xff)),
          u8 (((((v2) &&& 0x1) <<< 7) ||| ((v3 >>> 36) &&& 0x7f))),
          u8 (((v3 >>> 28) &&& 0xff)),
          u8 (((v3 >>> 20) &&& 0xff)),
          u8 (((v3 >>> 12) &&& 0xff)),
          u8 (((v3 >>> 4) &&& 0xff)),
          u8 (((((v3) &&& 0xf) <<< 4) ||| ((v4 >>> 39) &&& 0xf))),
          u8 (((v4 >>> 31) &&& 0xff)),
          u8 (((v4 >>> 23) &&& 0xff)),
          u8 (((v4 >>> 15) &&& 0xff)),
          u8 (((v4 >>> 7) &&& 0xff)),
          u8 (((((v4) &&& 0x7f) <<< 1) ||| ((v5 >>> 42) &&& 0x1))),
          u8 (((v5 >>> 34) &&& 0xff)),
          u8 (((v5 >>> 26) &&& 0xff)),
          u8 (((v5 >>> 18) &&& 0xff)),
          u8 (((v5 >>> 10) &&& 0xff)),
          u8 (((v5 >>> 2) &&& 0xff)),
          u8 (((((v5) &&& 0x3) <<< 6) ||| ((v6 >>> 37) &&& 0x3f))),
          u8 (((v6 >>> 29) &&& 0xff)),
          u8 (((v6 >>> 21) &&& 0xff)),
          u8 (((v6 >>> 13) &&& 0xff)),
          u8 (((v6 >>> 5) &&& 0xff)),
          u8 (((((v6) &&& 0x1f) <<< 3) ||| ((v7 >>> 40) &&& 0x7))),
          u8 (((v7 >>> 32) &&& 0xff)),
          u8 (((v7 >>> 24) &&& 0xff)),
          u8 (((v7 >>> 16) &&& 0xff)),
          u8 (((v7 >>> 8) &&& 0xff)),
          u8 (((v7) &&& 0xff)) ] := rfl
  obtain ⟨A0, S0, hT0, hA0, hS0⟩ :=
    streamT_decomp 43 [(v0, 43), (v1, 43), (v2, 43), (v3, 43), (v4, 43), (v5, 43), (v6, 43), (v7, 43)] [] [(v1, 43), (v2, 43), (v3, 43), (v4, 43), (v5, 43), (v6, 43), (v7, 43)] v0 43 0 rfl rfl hvs
      (by norm_num [List.map_cons, List.map_nil, List.sum_cons, List.sum_nil])
  obtain ⟨A1, S1, hT1, hA1, hS1⟩ :=
    streamT_decomp 43 [(v0, 43), (v1, 43), (v2, 43), (v3, 43), (v4, 43), (v5, 43), (v6, 43), (v7, 43)] [(v0, 43)] [(v2, 43), (v3, 43), (v4, 43), (v5, 43), (v6, 43), (v7, 43)] v1 43 43 rfl rfl hvs
      (by norm_num [List.map_cons, List.map_nil, List.sum_cons, List.sum_nil])
  obtain ⟨A2, S2, hT2, hA2, hS2⟩ :=
    streamT_decomp 43 [(v0, 43), (v1, 43), (v2, 43), (v3, 43), (v4, 43), (v5, 43), (v6, 43), (v7, 43)] [(v0, 43), (v1, 43)] [(v3, 43), (v4, 43), (v5, 43), (v6, 43), (v7, 43)] v2 43 86 rfl rfl hvs
      (by norm_num [List.map_cons, List.map_nil, List.sum_cons, List.sum_nil])
  obtain ⟨A3, S3, hT3, hA3, hS3⟩ :=
    streamT_decomp 43 [(v0, 43), (v1, 43), (v2, 43), (v3, 43), (v4, 43), (v5, 43), (v6, 43), (v7, 43)] [(v0, 43), (v1, 43), (v2, 43)] [(v4, 43), (v5, 43), (v6, 43), (v7, 43)] v3 43 129 rfl rfl hvs
      (by norm_num [List.map_cons, List.map_nil, List.sum_cons, List.sum_nil])
  obtain ⟨A4, S4, hT4, hA4, hS4⟩ :=
    streamT_decomp 43 [(v0, 43), (v1, 43), (v2, 43), (v3, 43), (v4, 43), (v5, 43), (v6, 43), (v7, 43)] [(v0, 43), (v1, 43), (v2, 43), (v3, 43)] [(v5, 43), (v6, 43), (v7, 43)] v4 43 172 rfl rfl hvs
      (by norm_num [List.map_cons, List.map_nil, List.sum_cons, List.sum_nil])
  obtain ⟨A5, S5, hT5, hA5, hS5⟩ :=
    streamT_decomp 43 [(v0, 43), (v1, 43), (v2, 43), (v3, 43), (v4, 43), (v5, 43), (v6, 43), (v7, 43)] [(v0, 43), (v1, 43), (v2, 43), (v3, 43), (v4, 43)] [(v6, 43), (v7, 43)] v5 43 215 rfl rfl hvs
      (by norm_num [List.map_cons, List.map_nil, List.sum_cons, List.sum_nil])
  obtain ⟨A6, S6, hT6, hA6, hS6⟩ :=
    streamT_decomp 43 [(v0, 43), (v1, 43), (v2, 43), (v3, 43), (v4, 43), (v5, 43), (v6, 43), (v7, 43)] [(v0, 43), (v1, 43), (v2, 43), (v3, 43), (v4, 43), (v5, 43)] [(v7, 43)] v6 43 258 rfl rfl hvs
      (by norm_num [List.map_cons, List.map_nil, List.sum_cons, List.sum_nil])
  obtain ⟨A7, S7, hT7, hA7, hS7⟩ :=
    streamT_decomp 43 [(v0, 43), (v1, 43), (v2, 43), (v3, 43), (v4, 43), (v5, 43), (v6, 43), (v7, 43)] [(v0, 43), (v1, 43), (v2, 43), (v3, 43), (v4, 43), (v5, 43), (v6, 43)] [] v7 43 301 rfl rfl hvs
      (by norm_num [List.map_cons, List.map_nil, List.sum_cons, List.sum_nil])
  obtain ⟨B0, R0, hU0, hB0, hR0⟩ :=
    streamT_decomp2 43 [(v0, 43), (v1, 43), (v2, 43), (v3, 43), (v4, 43), (v5, 43), (v6, 43), (v7, 43)] [] [(v2, 43), (v3, 43), (v4, 43), (v5, 43), (v6, 43), (v7, 43)] v0 v1 43 43 0 rfl rfl hvs
      (by norm_num [List.map_cons, List.map_nil, List.sum_cons, List.sum_nil])
  obtain ⟨B1, R1, hU1, hB1, hR1⟩ :=
    streamT_decomp2 43 [(v0, 43), (v1, 43), (v2, 43), (v3, 43), (v4, 43), (v5, 43), (v6, 43), (v7, 43)] [(v0, 43)] [(v3, 43), (v4, 43), (v5, 43), (v6, 43), (v7, 43)] v1 v2 43 43 43 rfl rfl hvs
      (by norm_num [List.map_cons, List.map_nil, List.sum_cons, List.sum_nil])
  obtain ⟨B2, R2, hU2, hB2, hR2⟩ :=
    streamT_decomp2 43 [(v0, 43), (v1, 43), (v2, 43), (v3, 43), (v4, 43), (v5, 43), (v6, 43), (v7, 43)] [(v0, 43), (v1, 43)] [(v4, 43), (v5, 43), (v6, 43), (v7, 43)] v2 v3 43 43 86 rfl rfl hvs
      (by norm_num [List.map_cons, List.map_nil, List.sum_cons, List.sum_nil])
  obtain ⟨B3, R3, hU3, hB3, hR3⟩ :=
    streamT_decomp2 43 [(v0, 43), (v1, 43), (v2, 43), (v3, 43), (v4, 43), (v5, 43), (v6, 43), (v7, 43)] [(v0, 43), (v1, 43), (v2, 43)] [(v5, 43), (v6, 43), (v7, 43)] v3 v4 43 43 129 rfl rfl hvs
      (by norm_num [List.map_cons, List.map_nil, List.sum_cons, List.sum_nil])
  obtain ⟨B4, R4, hU4, hB4, hR4⟩ :=
    streamT_decomp2 43 [(v0, 43), (v1, 43), (v2, 43), (v3, 43), (v4, 43), (v5, 43), (v6, 43), (v7, 43)] [(v0, 43), (v1, 43), (v2, 43), (v3, 43)] [(v6, 43), (v7, 43)] v4 v5 43 43 172 rfl rfl hvs
      (by norm_num [List.map_cons, List.map_nil, List.sum_cons, List.sum_nil])
  obtain ⟨B5, R5, hU5, hB5, hR5⟩ :=
    streamT_decomp2 43 [(v0, 43), (v1, 43), (v2, 43), (v3, 43), (v4, 43), (v5, 43), (v6, 43), (v7, 43)] [(v0, 43), (v1, 43), (v2, 43), (v3, 43), (v4, 43)] [(v7, 43)] v5 v6 43 43 215 rfl rfl hvs
      (by norm_num [List.map_cons, List.map_nil, List.sum_cons, List.sum_nil])
  obtain ⟨B6, R6, hU6, hB6, hR6⟩ :=
    streamT_decomp2 43 [(v0, 43), (v1, 43), (v2, 43), (v3, 43), (v4, 43), (v5, 43), (v6, 43), (v7, 43)] [(v0, 43), (v1, 43), (v2, 43), (v3, 43), (v4, 43), (v5, 43)] [] v6 v7 43 43 258 rfl rfl hvs
      (by norm_num [List.map_cons, List.map_nil, List.sum_cons, List.sum_nil])
  rw [key, key2]
  simp only [List.cons.injEq]
  refine ⟨?_, ?_, ?_, ?_, ?_, ?_, ?_, ?_, ?_, ?_, ?_, ?_, ?_, ?_, ?_, ?_, ?_, ?_, ?_, ?_, ?_, ?_, ?_, ?_, ?_, ?_, ?_, ?_, ?_, ?_, ?_, ?_, ?_, ?_, ?_, ?_, ?_, ?_, ?_, ?_, ?_, ?_, ?_, trivial⟩
  · rw [hT0]
    exact byteSpec_mid 43 A0 v0 S0 (8 * 43 - 0 - 43) 43 0 35 hA0 hS0
      (by norm_num) (by norm_num)
  · rw [hT0]
    exact byteSpec_mid 43 A0 v0 S0 (8 * 43 - 0 - 43) 43 1 27 hA0 hS0
      (by norm_num) (by norm_num)
  · rw [hT0]
    exact byteSpec_mid 43 A0 v0 S0 (8 * 43 - 0 - 43) 43 2 19 hA0 hS0
      (by norm_num) (by norm_num)
  · rw [hT0]
    exact byteSpec_mid 43 A0 v0 S0 (8 * 43 - 0 - 43) 43 3 11 hA0 hS0
      (by norm_num) (by norm_num)
  · rw [hT0]
    exact byteSpec_mid 43 A0 v0 S0 (8 * 43 - 0 - 43) 43 4 3 hA0 hS0
      (by norm_num) (by norm_num)
  · rw [hU0]
    exact byteSpec_bnd 43 B0 v0 v1 R0 (8 * 43 - 0 - 43 - 43) 5 3 5 38 7 31 43 hB0 hv0 hv1 hR0
      (by norm_num) (by norm_num) (by norm_num) (by norm_num) (by norm_num)
  · rw [hT1]
    exact byteSpec_mid 43 A1 v1 S1 (8 * 43 - 43 - 43) 43 6 30 hA1 hS1
      (by norm_num) (by norm_num)
  · rw [hT1]
    exact byteSpec_mid 43 A1 v1 S1 (8 * 43 - 43 - 43) 43 7 22 hA1 hS1
      (by norm_num) (by norm_num)
  · rw [hT1]
    exact byteSpec_mid 43 A1 v1 S1 (8 * 43 - 43 - 43) 43 8 14 hA1 hS1
      (by norm_num) (by norm_num)
  · rw [hT1]
    exact byteSpec_mid 43 A1 v1 S1 (8 * 43 - 43 - 43) 43 9 6 hA1 hS1
      (by norm_num) (by norm_num)
  · rw [hU1]
    exact byteSpec_bnd 43 B1 v1 v2 R1 (8 * 43 - 43 - 43 - 43) 10 6 2 41 63 3 43 hB1 hv1 hv2 hR1
      (by norm_num) (by norm_num) (by norm_num) (by norm_num) (by norm_num)
  · rw [hT2]
    exact byteSpec_mid 43 A2 v2 S2 (8 * 43 - 86 - 43) 43 11 33 hA2 hS2
      (by norm_num) (by norm_num)
  · rw [hT2]
    exact byteSpec_mid 43 A2 v2 S2 (8 * 43 - 86 - 43) 43 12 25 hA2 hS2
      (by norm_num) (by norm_num)
  · rw [hT2]
    exact byteSpec_mid 43 A2 v2 S2 (8 * 43 - 86 - 43) 43 13 17 hA2 hS2
      (by norm_num) (by norm_num)
  · rw [hT2]
    exact byteSpec_mid 43 A2 v2 S2 (8 * 43 - 86 - 43) 43 14 9 hA2 hS2
      (by norm_num) (by norm_num)
  · rw [hT2]
    exact byteSpec_mid 43 A2 v2 S2 (8 * 43 - 86 - 43) 43 15 1 hA2 hS2
      (by norm_num) (by norm_num)
  · rw [hU2]
    exact byteSpec_bnd 43 B2 v2 v3 R2 (8 * 43 - 86 - 43 - 43) 16 1 7 36 1 127 43 hB2 hv2 hv3 hR2
      (by norm_num) (by norm_num) (by norm_num) (by norm_num) (by norm_num)
  · rw [hT3]
    exact byteSpec_mid 43 A3 v3 S3 (8 * 43 - 129 - 43) 43 17 28 hA3 hS3
      (by norm_num) (by norm_num)
  · rw [hT3]
    exact byteSpec_mid 43 A3 v3 S3 (8 * 43 - 129 - 43) 43 18 20 hA3 hS3
      (by norm_num) (by norm_num)
  · rw [hT3]
    exact byteSpec_mid 43 A3 v3 S3 (8 * 43 - 129 - 43) 43 19 12 hA3 hS3
      (by norm_num) (by norm_num)
  · rw [hT3]
    exact byteSpec_mid 43 A3 v3 S3 (8 * 43 - 129 - 43) 43 20 4 hA3 hS3
      (by norm_num) (by norm_num)
  · rw [hU3]
    exact byteSpec_bnd 43 B3 v3 v4 R3 (8 * 43 - 129 - 43 - 43) 21 4 4 39 15 15 43 hB3 hv3 hv4 hR3
      (by norm_num) (by norm_num) (by norm_num) (by norm_num) (by norm_num)
  · rw [hT4]
    exact byteSpec_mid 43 A4 v4 S4 (8 * 43 - 172 - 43) 43 22 31 hA4 hS4
      (by norm_num) (by norm_num)
  · rw [hT4]
    exact byteSpec_mid 43 A4 v4 S4 (8 * 43 - 172 - 43) 43 23 23 hA4 hS4
      (by norm_num) (by norm_num)
  · rw [hT4]
    exact byteSpec_mid 43 A4 v4 S4 (8 * 43 - 172 - 43) 43 24 15 hA4 hS4
      (by norm_num) (by norm_num)
  · rw [hT4]
    exact byteSpec_mid 43 A4 v4 S4 (8 * 43 - 172 - 43) 43 25 7 hA4 hS4
      (by norm_num) (by norm_num)
  · rw [hU4]
    exact byteSpec_bnd 43 B4 v4 v5 R4 (8 * 43 - 172 - 43 - 43) 26 7 1 42 127 1 43 hB4 hv4 hv5 hR4
      (by norm_num) (by norm_num) (by norm_num) (by norm_num) (by norm_num)
  · rw [hT5]
    exact byteSpec_mid 43 A5 v5 S5 (8 * 43 - 215 - 43) 43 27 34 hA5 hS5
      (by norm_num) (by norm_num)
  · rw [hT5]
    exact byteSpec_mid 43 A5 v5 S5 (8 * 43 - 215 - 43) 43 28 26 hA5 hS5
      (by norm_num) (by norm_num)
  · rw [hT5]
    exact byteSpec_mid 43 A5 v5 S5 (8 * 43 - 215 - 43) 43 29 18 hA5 hS5
      (by norm_num) (by norm_num)
  · rw [hT5]
    exact byteSpec_mid 43 A5 v5 S5 (8 * 43 - 215 - 43) 43 30 10 hA5 hS5
      (by norm_num) (by norm_num)
  · rw [hT5]
    exact byteSpec_mid 43 A5 v5 S5 (8 * 43 - 215 - 43) 43 31 2 hA5 hS5
      (by norm_num) (by norm_num)
  · rw [hU5]
    exact byteSpec_bnd 43 B5 v5 v6 R5 (8 * 43 - 215 - 43 - 43) 32 2 6 37 3 63 43 hB5 hv5 hv6 hR5
      (by norm_num) (by norm_num) (by norm_num) (by norm_num) (by norm_num)
  · rw [hT6]
    exact byteSpec_mid 43 A6 v6 S6 (8 * 43 - 258 - 43) 43 33 29 hA6 hS6
      (by norm_num) (by norm_num)
  · rw [hT6]
    exact byteSpec_mid 43 A6 v6 S6 (8 * 43 - 258 - 43) 43 34 21 hA6 hS6
      (by norm_num) (by norm_num)
  · rw [hT6]
    exact byteSpec_mid 43 A6 v6 S6 (8 * 43 - 258 - 43) 43 35 13 hA6 hS6
      (by norm_num) (by norm_num)
  · rw [hT6]
    exact byteSpec_mid 43 A6 v6 S6 (8 * 43 - 258 - 43) 43 36 5 hA6 hS6
      (by norm_num) (by norm_num)
  · rw [hU6]
    exact byteSpec_bnd 43 B6 v6 v7 R6 (8 * 43 - 258 - 43 - 43) 37 5 3 40 31 7 43 hB6 hv6 hv7 hR6
      (by norm_num) (by norm_num) (by norm_num) (by norm_num) (by norm_num)
  · rw [hT7]
    exact byteSpec_mid 43 A7 v7 S7 (8 * 43 - 301 - 43) 43 38 32 hA7 hS7
      (by norm_num) (by norm_num)
  · rw [hT7]
    exact byteSpec_mid 43 A7 v7 S7 (8 * 43 - 301 - 43) 43 39 24 hA7 hS7
      (by norm_num) (by norm_num)
  · rw [hT7]
    exact byteSpec_mid 43 A7 v7 S7 (8 * 43 - 301 - 43) 43 40 16 hA7 hS7
      (by norm_num) (by norm_num)
  · rw [hT7]
    exact byteSpec_mid 43 A7 v7 S7 (8 * 43 - 301 - 43) 43 41 8 hA7 hS7
      (by norm_num) (by norm_num)
  · rw [hT7]
    exact byteSpec_mid0 43 A7 v7 S7 (8 * 43 - 301 - 43) 43 42 hA7 hS7
      (by norm_num) (by norm_num)

set_option maxRecDepth 16000 in
set_option maxHeartbeats 1000000 in
theorem c5_pack_eq_44 (v0 v1 v2 v3 v4 v5 v6 v7 : Nat) (hv0 : v0 < 2 ^ 44) (hv1 : v1 < 2 ^ 44) (hv2 : v2 < 2 ^ 44) (hv3 : v3 < 2 ^ 44) (hv4 : v4 < 2 ^ 44) (hv5 : v5 < 2 ^ 44) (hv6 : v6 < 2 ^ 44) (hv7 : v7 < 2 ^ 44) :
    (packSeq (BitPacker.new (List.replicate 44 0)) [(v0, 44), (v1, 44), (v2, 44), (v3, 44), (v4, 44), (v5, 44), (v6, 44), (v7, 44)]).bytes
      = pack_bits_44 v0 v1 v2 v3 v4 v5 v6 v7 := by
  have hvs : ∀ p ∈ ([(v0, 44), (v1, 44), (v2, 44), (v3, 44), (v4, 44), (v5, 44), (v6, 44), (v7, 44)] : List (Nat × Nat)), p.1 < 2 ^ p.2 := by
    intro p hp
    simp only [List.mem_cons, List.not_mem_nil, or_false] at hp
    rcases hp with rfl | rfl | rfl | rfl | rfl | rfl | rfl | rfl
    exacts [hv0, hv1, hv2, hv3, hv4, hv5, hv6, hv7]
  obtain ⟨-, -, -, ⟨hlen, hbytes⟩, -, -⟩ :=
    packSeq_inv 44 [(v0, 44), (v1, 44), (v2, 44), (v3, 44), (v4, 44), (v5, 44), (v6, 44), (v7, 44)] 0 0 _ hvs
      (by norm_num [List.map_cons, List.map_nil, List.sum_cons, List.sum_nil]) (packInv_init 44)
  have key : (packSeq (BitPacker.new (List.replicate 44 0)) [(v0, 44), (v1, 44), (v2, 44), (v3, 44), (v4, 44), (v5, 44), (v6, 44), (v7, 44)]).bytes
      = [ ByteSpec 44 (streamT 44 [(v0, 44), (v1, 44), (v2, 44), (v3, 44), (v4, 44), (v5, 44), (v6, 44), (v7, 44)] 0 0) 0,
          ByteSpec 44 (streamT 44 [(v0, 44), (v1, 44), (v2, 44), (v3, 44), (v4, 44), (v5, 44), (v6, 44), (v7, 44)] 0 0) 1,
          ByteSpec 44 (streamT 44 [(v0, 44), (v1, 44), (v2, 44), (v3, 44), (v4, 44), (v5, 44), (v6, 44), (v7, 44)] 0 0) 2,
          ByteSpec 44 (streamT 44 [(v0, 44), (v1, 44), (v2, 44), (v3, 44), (v4, 44), (v5, 44), (v6, 44), (v7, 44)] 0 0) 3,
          ByteSpec 44 (streamT 44 [(v0, 44), (v1, 44), (v2, 44), (v3, 44), (v4, 44), (v5, 44), (v6, 44), (v7, 44)] 0 0) 4,
          ByteSpec 44 (streamT 44 [(v0, 44), (v1, 44), (v2, 44), (v3, 44), (v4, 44), (v5, 44), (v6, 44), (v7, 44)] 0 0) 5,
          ByteSpec 44 (streamT 44 [(v0, 44), (v1, 44), (v2, 44), (v3, 44), (v4, 44), (v5, 44), (v6, 44), (v7, 44)] 0 0) 6,
          ByteSpec 44 (streamT 44 [(v0, 44), (v1, 44), (v2, 44), (v3, 44), (v4, 44), (v5, 44), (v6, 44), (v7, 44)] 0 0) 7,
          ByteSpec 44 (streamT 44 [(v0, 44), (v1, 44), (v2, 44), (v3, 44), (v4, 44), (v5, 44), (v6, 44), (v7, 44)] 0 0) 8,
          ByteSpec 44 (streamT 44 [(v0, 44), (v1, 44), (v2, 44), (v3, 44), (v4, 44), (v5, 44), (v6, 44), (v7, 44)] 0 0) 9,
          ByteSpec 44 (streamT 44 [(v0, 44), (v1, 44), (v2, 44), (v3, 44), (v4, 44), (v5, 44), (v6, 44), (v7, 44)] 0 0) 10,
          ByteSpec 44 (streamT 44 [(v0, 44), (v1, 44), (v2, 44), (v3, 44), (v4, 44), (v5, 44), (v6, 44), (v7, 44)] 0 0) 11,
          ByteSpec 44 (streamT 44 [(v0, 44), (v1, 44), (v2, 44), (v3, 44), (v4, 44), (v5, 44), (v6, 44), (v7, 44)] 0 0) 12,
          ByteSpec 44 (streamT 44 [(v0, 44), (v1, 44), (v2, 44), (v3, 44), (v4, 44), (v5, 44), (v6, 44), (v7, 44)] 0 0) 13,
          ByteSpec 44 (streamT 44 [(v0, 44), (v1, 44), (v2, 44), (v3, 44), (v4, 44), (v5, 44), (v6, 44), (v7, 44)] 0 0) 14,
          ByteSpec 44 (streamT 44 [(v0, 44), (v1, 44), (v2, 44), (v3, 44), (v4, 44), (v5, 44), (v6, 44), (v7, 44)] 0 0) 15,
          ByteSpec 44 (streamT 44 [(v0, 44), (v1, 44), (v2, 44), (v3, 44), (v4, 44), (v5, 44), (v6, 44), (v7, 44)] 0 0) 16,
          ByteSpec 44 (streamT 44 [(v0, 44), (v1, 44), (v2, 44), (v3, 44), (v4, 44), (v5, 44), (v6, 44), (v7, 44)] 0 0) 17,
          ByteSpec 44 (streamT 44 [(v0, 44), (v1, 44), (v2, 44), (v3, 44), (v4, 44), (v5, 44), (v6, 44), (v7, 44)] 0 0) 18,
          ByteSpec 44 (streamT 44 [(v0, 44), (v1, 44), (v2, 44), (v3, 44), (v4, 44), (v5, 44), (v6, 44), (v7, 44)] 0 0) 19,
          ByteSpec 44 (streamT 44 [(v0, 44), (v1, 44), (v2, 44), (v3, 44), (v4, 44), (v5, 44), (v6, 44), (v7, 44)] 0 0) 20,
          ByteSpec 44 (streamT 44 [(v0, 44), (v1, 44), (v2, 44), (v3, 44), (v4, 44), (v5, 44), (v6, 44), (v7, 44)] 0 0) 21,
          ByteSpec 44 (streamT 44 [(v0, 44), (v1, 44), (v2, 44), (v3, 44), (v4, 44), (v5, 44), (v6, 44), (v7, 44)] 0 0) 22,
          ByteSpec 44 (streamT 44 [(v0, 44), (v1, 44), (v2, 44), (v3, 44), (v4, 44), (v5, 44), (v6, 44), (v7, 44)] 0 0) 23,
          ByteSpec 44 (streamT 44 [(v0, 44), (v1, 44), (v2, 44), (v3, 44), (v4, 44), (v5, 44), (v6, 44), (v7, 44)] 0 0) 24,
          ByteSpec 44 (streamT 44 [(v0, 44), (v1, 44), (v2, 44), (v3, 44), (v4, 44), (v5, 44), (v6, 44), (v7, 44)] 0 0) 25,
          ByteSpec 44 (streamT 44 [(v0, 44), (v1, 44), (v2, 44), (v3, 44), (v4, 44), (v5, 44), (v6, 44), (v7, 44)] 0 0) 26,
          ByteSpec 44 (streamT 44 [(v0, 44), (v1, 44), (v2, 44), (v3, 44), (v4, 44), (v5, 44), (v6, 44), (v7, 44)] 0 0) 27,
          ByteSpec 44 (streamT 44 [(v0, 44), (v1, 44), (v2, 44), (v3, 44), (v4, 44), (v5, 44), (v6, 44), (v7, 44)] 0 0) 28,
          ByteSpec 44 (streamT 44 [(v0, 44), (v1, 44), (v2, 44), (v3, 44), (v4, 44), (v5, 44), (v6, 44), (v7, 44)] 0 0) 29,
          ByteSpec 44 (streamT 44 [(v0, 44), (v1, 44), (v2, 44), (v3, 44), (v4, 44), (v5, 44), (v6, 44), (v7, 44)] 0 0) 30,
          ByteSpec 44 (streamT 44 [(v0, 44), (v1, 44), (v2, 44), (v3, 44), (v4, 44), (v5, 44), (v6, 44), (v7, 44)] 0 0) 31,
          ByteSpec 44 (streamT 44 [(v0, 44), (v1, 44), (v2, 44), (v3, 44), (v4, 44), (v5, 44), (v6, 44), (v7, 44)] 0 0) 32,
          ByteSpec 44 (streamT 44 [(v0, 44), (v1, 44), (v2, 44), (v3, 44), (v4, 44), (v5, 44), (v6, 44), (v7, 44)] 0 0) 33,
          ByteSpec 44 (streamT 44 [(v0, 44), (v1, 44), (v2, 44), (v3, 44), (v4, 44), (v5, 44), (v6, 44), (v7, 44)] 0 0) 34,
          ByteSpec 44 (streamT 44 [(v0, 44), (v1, 44), (v2, 44), (v3, 44), (v4, 44), (v5, 44), (v6, 44), (v7, 44)] 0 0) 35,
          ByteSpec 44 (streamT 44 [(v0, 44), (v1, 44), (v2, 44), (v3, 44), (v4, 44), (v5, 44), (v6, 44), (v7, 44)] 0 0) 36,
          ByteSpec 44 (streamT 44 [(v0, 44), (v1, 44), (v2, 44), (v3, 44), (v4, 44), (v5, 44), (v6, 44), (v7, 44)] 0 0) 37,
          ByteSpec 44 (streamT 44 [(v0, 44), (v1, 44), (v2, 44), (v3, 44), (v4, 44), (v5, 44), (v6, 44), (v7, 44)] 0 0) 38,
          ByteSpec 44 (streamT 44 [(v0, 44), (v1, 44), (v2, 44), (v3, 44), (v4, 44), (v5, 44), (v6, 44), (v7, 44)] 0 0) 39,
          ByteSpec 44 (streamT 44 [(v0, 44), (v1, 44), (v2, 44), (v3, 44), (v4, 44), (v5, 44), (v6, 44), (v7, 44)] 0 0) 40,
          ByteSpec 44 (streamT 44 [(v0, 44), (v1, 44), (v2, 44), (v3, 44), (v4, 44), (v5, 44), (v6, 44), (v7, 44)] 0 0) 41,
          ByteSpec 44 (streamT 44 [(v0, 44), (v1, 44), (v2, 44), (v3, 44), (v4, 44), (v5, 44), (v6, 44), (v7, 44)] 0 0) 42,
          ByteSpec 44 (streamT 44 [(v0, 44), (v1, 44), (v2, 44), (v3, 44), (v4, 44), (v5, 44), (v6, 44), (v7, 44)] 0 0) 43 ] :=
    (list_eq_map_range_of_getD _ _ 44 hlen hbytes).trans (by rfl)
  have key2 : pack_bits_44 v0 v1 v2 v3 v4 v5 v6 v7
      = [ u8 (((v0 >>> 36) &&& 0xff)),
          u8 (((v0 >>> 28) &&& 0xff)),
          u8 (((v0 >>> 20) &&& 0xff)),
          u8 (((v0 >>> 12) &&& 0xff)),
          u8 (((v0 >>> 4) &&& 0xff)),
          u8 (((((v0) &&& 0xf) <<< 4) ||| ((v1 >>> 40) &&& 0xf))),
          u8 (((v1 >>> 32) &&& 0xff)),
          u8 (((v1 >>> 24) &&& 0xff)),
          u8 (((v1 >>> 16) &&& 0xff)),
          u8 (((v1 >>> 8) &&& 0xff)),
          u8 (((v1) &&& 0xff)),
          u8 (((v2 >>> 36) &&& 0xff)),
          u8 (((v2 >>> 28) &&& 0xff)),
          u8 (((v2 >>> 20) &&& 0xff)),
          u8 (((v2 >>> 12) &&& 0xff)),
          u8 (((v2 >>> 4) &&& 0xff)),
          u8 (((((v2) &&& 0xf) <<< 4) ||| ((v3 >>> 40) &&& 0xf))),
          u8 (((v3 >>> 32) &&& 0xff)),
          u8 (((v3 >>> 24) &&& 0xff)),
          u8 (((v3 >>> 16) &&& 0xff)),
          u8 (((v3 >>> 8) &&& 0xff)),
          u8 (((v3) &&& 0xff)),
          u8 (((v4 >>> 36) &&& 0xff)),
          u8 (((v4 >>> 28) &&& 0xff)),
          u8 (((v4 >>> 20) &&& 0xff)),
          u8 (((v4 >>> 12) &&& 0xff)),
          u8 (((v4 >>> 4) &&& 0xff)),
          u8 (((((v4) &&& 0xf) <<< 4) ||| ((v5 >>> 40) &&& 0xf))),
          u8 (((v5 >>> 32) &&& 0xff)),
          u8 (((v5 >>> 24) &&& 0xff)),
          u8 (((v5 >>> 16) &&& 0xff)),
          u8 (((v5 >>> 8) &&& 0xff)),
          u8 (((v5) &&& 0xff)),
          u8 (((v6 >>> 36) &&& 0xff)),
          u8 (((v6 >>> 28) &&& 0xff)),
          u8 (((v6 >>> 20) &&& 0xff)),
          u8 (((v6 >>> 12) &&& 0xff)),
          u8 (((v6 >>> 4) &&& 0xff)),
          u8 (((((v6) &&& 0xf) <<< 4) ||| ((v7 >>> 40) &&& 0xf))),
          u8 (((v7 >>> 32) &&& 0xff)),
          u8 (((v7 >>> 24) &&& 0xff)),
          u8 (((v7 >>> 16) &&& 0xff)),
          u8 (((v7 >>> 8) &&& 0xff)),
          u8 (((v7) &&& 0xff)) ] := rfl
  obtain ⟨A0, S0, hT0, hA0, hS0⟩ :=
    streamT_decomp 44 [(v0, 44), (v1, 44), (v2, 44), (v3, 44), (v4, 44), (v5, 44), (v6, 44), (v7, 44)] [] [(v1, 44), (v2, 44), (v3, 44), (v4, 44), (v5, 44), (v6, 44), (v7, 44)] v0 44 0 rfl rfl hvs
      (by norm_num [List.map_cons, List.map_nil, List.sum_cons, List.sum_nil])
  obtain ⟨A1, S1, hT1, hA1, hS1⟩ :=
    streamT_decomp 44 [(v0, 44), (v1, 44), (v2, 44), (v3, 44), (v4, 44), (v5, 44), (v6, 44), (v7, 44)] [(v0, 44)] [(v2, 44), (v3, 44), (v4, 44), (v5, 44), (v6, 44), (v7, 44)] v1 44 44 rfl rfl hvs
      (by norm_num [List.map_cons, List.map_nil, List.sum_cons, List.sum_nil])
  obtain ⟨A2, S2, hT2, hA2, hS2⟩ :=
    streamT_decomp 44 [(v0, 44), (v1, 44), (v2, 44), (v3, 44), (v4, 44), (v5, 44), (v6, 44), (v7, 44)] [(v0, 44), (v1, 44)] [(v3, 44), (v4, 44), (v5, 44), (v6, 44), (v7, 44)] v2 44 88 rfl rfl hvs
      (by norm_num [List.map_cons, List.map_nil, List.sum_cons, List.sum_nil])
  obtain ⟨A3, S3, hT3, hA3, hS3⟩ :=
    streamT_decomp 44 [(v0, 44), (v1, 44), (v2, 44), (v3, 44), (v4, 44), (v5, 44), (v6, 44), (v7, 44)] [(v0, 44), (v1, 44), (v2, 44)] [(v4, 44), (v5, 44), (v6, 44), (v7, 44)] v3 44 132 rfl rfl hvs
      (by norm_num [List.map_cons, List.map_nil, List.sum_cons, List.sum_nil])
  obtain ⟨A4, S4, hT4, hA4, hS4⟩ :=
    streamT_decomp 44 [(v0, 44), (v1, 44), (v2, 44), (v3, 44), (v4, 44), (v5, 44), (v6, 44), (v7, 44)] [(v0, 44), (v1, 44), (v2, 44), (v3, 44)] [(v5, 44), (v6, 44), (v7, 44)] v4 44 176 rfl rfl hvs
      (by norm_num [List.map_cons, List.map_nil, List.sum_cons, List.sum_nil])
  obtain ⟨A5, S5, hT5, hA5, hS5⟩ :=
    streamT_decomp 44 [(v0, 44), (v1, 44), (v2, 44), (v3, 44), (v4, 44), (v5, 44), (v6, 44), (v7, 44)] [(v0, 44), (v1, 44), (v2, 44), (v3, 44), (v4, 44)] [(v6, 44), (v7, 44)] v5 44 220 rfl rfl hvs
      (by norm_num [List.map_cons, List.map_nil, List.sum_cons, List.sum_nil])
  obtain ⟨A6, S6, hT6, hA6, hS6⟩ :=
    streamT_decomp 44 [(v0, 44), (v1, 44), (v2, 44), (v3, 44), (v4, 44), (v5, 44), (v6, 44), (v7, 44)] [(v0, 44), (v1, 44), (v2, 44), (v3, 44), (v4, 44), (v5, 44)] [(v7, 44)] v6 44 264 rfl rfl hvs
      (by norm_num [List.map_cons, List.map_nil, List.sum_cons, List.sum_nil])
  obtain ⟨A7, S7, hT7, hA7, hS7⟩ :=
    streamT_decomp 44 [(v0, 44), (v1, 44), (v2, 44), (v3, 44), (v4, 44), (v5, 44), (v6, 44), (v7, 44)] [(v0, 44), (v1, 44), (v2, 44), (v3, 44), (v4, 44), (v5, 44), (v6, 44)] [] v7 44 308 rfl rfl hvs
      (by norm_num [List.map_cons, List.map_nil, List.sum_cons, List.sum_nil])
  obtain ⟨B0, R0, hU0, hB0, hR0⟩ :=
    streamT_decomp2 44 [(v0, 44), (v1, 44), (v2, 44), (v3, 44), (v4, 44), (v5, 44), (v6, 44), (v7, 44)] [] [(v2, 44), (v3, 44), (v4, 44), (v5, 44), (v6, 44), (v7, 44)] v0 v1 44 44 0 rfl rfl hvs
      (by norm_num [List.map_cons, List.map_nil, List.sum_cons, List.sum_nil])
  obtain ⟨B2, R2, hU2, hB2, hR2⟩ :=
    streamT_decomp2 44 [(v0, 44), (v1, 44), (v2, 44), (v3, 44), (v4, 44), (v5, 44), (v6, 44), (v7, 44)] [(v0, 44), (v1, 44)] [(v4, 44), (v5, 44), (v6, 44), (v7, 44)] v2 v3 44 44 88 rfl rfl hvs
      (by norm_num [List.map_cons, List.map_nil, List.sum_cons, List.sum_nil])
  obtain ⟨B4, R4, hU4, hB4, hR4⟩ :=
    streamT_decomp2 44 [(v0, 44), (v1, 44), (v2, 44), (v3, 44), (v4, 44), (v5, 44), (v6, 44), (v7, 44)] [(v0, 44), (v1, 44), (v2, 44), (v3, 44)] [(v6, 44), (v7, 44)] v4 v5 44 44 176 rfl rfl hvs
      (by norm_num [List.map_cons, List.map_nil, List.sum_cons, List.sum_nil])
  obtain ⟨B6, R6, hU6, hB6, hR6⟩ :=
    streamT_decomp2 44 [(v0, 44), (v1, 44), (v2, 44), (v3, 44), (v4, 44), (v5, 44), (v6, 44), (v7, 44)] [(v0, 44), (v1, 44), (v2, 44), (v3, 44), (v4, 44), (v5, 44)] [] v6 v7 44 44 264 rfl rfl hvs
      (by norm_num [List.map_cons, List.map_nil, List.sum_cons, List.sum_nil])
  rw [key, key2]
  simp only [List.cons.injEq]
  refine ⟨?_, ?_, ?_, ?_, ?_, ?_, ?_, ?_, ?_, ?_, ?_, ?_, ?_, ?_, ?_, ?_, ?_, ?_, ?_, ?_, ?_, ?_, ?_, ?_, ?_, ?_, ?_, ?_, ?_, ?_, ?_, ?_, ?_, ?_, ?_, ?_, ?_, ?_, ?_, ?_, ?_, ?_, ?_, ?_, trivial⟩
  · rw [hT0]
    exact byteSpec_mid 44 A0 v0 S0 (8 * 44 - 0 - 44) 44 0 36 hA0 hS0
      (by norm_num) (by norm_num)
  · rw [hT0]
    exact byteSpec_mid 44 A0 v0 S0 (8 * 44 - 0 - 44) 44 1 28 hA0 hS0
      (by norm_num) (by norm_num)
  · rw [hT0]
    exact byteSpec_mid 44 A0 v0 S0 (8 * 44 - 0 - 44) 44 2 20 hA0 hS0
      (by norm_num) (by norm_num)
  · rw [hT0]
    exact byteSpec_mid 44 A0 v0 S0 (8 * 44 - 0 - 44) 44 3 12 hA0 hS0
      (by norm_num) (by norm_num)
  · rw [hT0]
    exact byteSpec_mid 44 A0 v0 S0 (8 * 44 - 0 - 44) 44 4 4 hA0 hS0
      (by norm_num) (by norm_num)
  · rw [hU0]
    exact byteSpec_bnd 44 B0 v0 v1 R0 (8 * 44 - 0 - 44 - 44) 5 4 4 40 15 15 44 hB0 hv0 hv1 hR0
      (by norm_num) (by norm_num) (by norm_num) (by norm_num) (by norm_num)
  · rw [hT1]
    exact byteSpec_mid 44 A1 v1 S1 (8 * 44 - 44 - 44) 44 6 32 hA1 hS1
      (by norm_num) (by norm_num)
  · rw [hT1]
    exact byteSpec_mid 44 A1 v1 S1 (8 * 44 - 44 - 44) 44 7 24 hA1 hS1
      (by norm_num) (by norm_num)
  · rw [hT1]
    exact byteSpec_mid 44 A1 v1 S1 (8 * 44 - 44 - 44) 44 8 16 hA1 hS1
      (by norm_num) (by norm_num)
  · rw [hT1]
    exact byteSpec_mid 44 A1 v1 S1 (8 * 44 - 44 - 44) 44 9 8 hA1 hS1
      (by norm_num) (by norm_num)
  · rw [hT1]
    exact byteSpec_mid0 44 A1 v1 S1 (8 * 44 - 44 - 44) 44 10 hA1 hS1
      (by norm_num) (by norm_num)
  · rw [hT2]
    exact byteSpec_mid 44 A2 v2 S2 (8 * 44 - 88 - 44) 44 11 36 hA2 hS2
      (by norm_num) (by norm_num)
  · rw [hT2]
    exact byteSpec_mid 44 A2 v2 S2 (8 * 44 - 88 - 44) 44 12 28 hA2 hS2
      (by norm_num) (by norm_num)
  · rw [hT2]
    exact byteSpec_mid 44 A2 v2 S2 (8 * 44 - 88 - 44) 44 13 20 hA2 hS2
      (by norm_num) (by norm_num)
  · rw [hT2]
    exact byteSpec_mid 44 A2 v2 S2 (8 * 44 - 88 - 44) 44 14 12 hA2 hS2
      (by norm_num) (by norm_num)
  · rw [hT2]
    exact byteSpec_mid 44 A2 v2 S2 (8 * 44 - 88 - 44) 44 15 4 hA2 hS2
      (by norm_num) (by norm_num)
  · rw [hU2]
    exact byteSpec_bnd 44 B2 v2 v3 R2 (8 * 44 - 88 - 44 - 44) 16 4 4 40 15 15 44 hB2 hv2 hv3 hR2
      (by norm_num) (by norm_num) (by norm_num) (by norm_num) (by norm_num)
  · rw [hT3]
    exact byteSpec_mid 44 A3 v3 S3 (8 * 44 - 132 - 44) 44 17 32 hA3 hS3
      (by norm_num) (by norm_num)
  · rw [hT3]
    exact byteSpec_mid 44 A3 v3 S3 (8 * 44 - 132 - 44) 44 18 24 hA3 hS3
      (by norm_num) (by norm_num)
  · rw [hT3]
    exact byteSpec_mid 44 A3 v3 S3 (8 * 44 - 132 - 44) 44 19 16 hA3 hS3
      (by norm_num) (by norm_num)
  · rw [hT3]
    exact byteSpec_mid 44 A3 v3 S3 (8 * 44 - 132 - 44) 44 20 8 hA3 hS3
      (by norm_num) (by norm_num)
  · rw [hT3]
    exact byteSpec_mid0 44 A3 v3 S3 (8 * 44 - 132 - 44) 44 21 hA3 hS3
      (by norm_num) (by norm_num)
  · rw [hT4]
    exact byteSpec_mid 44 A4 v4 S4 (8 * 44 - 176 - 44) 44 22 36 hA4 hS4
      (by norm_num) (by norm_num)
  · rw [hT4]
    exact byteSpec_mid 44 A4 v4 S4 (8 * 44 - 176 - 44) 44 23 28 hA4 hS4
      (by norm_num) (by norm_num)
  · rw [hT4]
    exact byteSpec_mid 44 A4 v4 S4 (8 * 44 - 176 - 44) 44 24 20 hA4 hS4
      (by norm_num) (by norm_num)
  · rw [hT4]
    exact byteSpec_mid 44 A4 v4 S4 (8 * 44 - 176 - 44) 44 25 12 hA4 hS4
      (by norm_num) (by norm_num)
  · rw [hT4]
    exact byteSpec_mid 44 A4 v4 S4 (8 * 44 - 176 - 44) 44 26 4 hA4 hS4
      (by norm_num) (by norm_num)
  · rw [hU4]
    exact byteSpec_bnd 44 B4 v4 v5 R4 (8 * 44 - 176 - 44 - 44) 27 4 4 40 15 15 44 hB4 hv4 hv5 hR4
      (by norm_num) (by norm_num) (by norm_num) (by norm_num) (by norm_num)
  · rw [hT5]
    exact byteSpec_mid 44 A5 v5 S5 (8 * 44 - 220 - 44) 44 28 32 hA5 hS5
      (by norm_num) (by norm_num)
  · rw [hT5]
    exact byteSpec_mid 44 A5 v5 S5 (8 * 44 - 220 - 44) 44 29 24 hA5 hS5
      (by norm_num) (by norm_num)
  · rw [hT5]
    exact byteSpec_mid 44 A5 v5 S5 (8 * 44 - 220 - 44) 44 30 16 hA5 hS5
      (by norm_num) (by norm_num)
  · rw [hT5]
    exact byteSpec_mid 44 A5 v5 S5 (8 * 44 - 220 - 44) 44 31 8 hA5 hS5
      (by norm_num) (by norm_num)
  · rw [hT5]
    exact byteSpec_mid0 44 A5 v5 S5 (8 * 44 - 220 - 44) 44 32 hA5 hS5
      (by norm_num) (by norm_num)
  · rw [hT6]
    exact byteSpec_mid 44 A6 v6 S6 (8 * 44 - 264 - 44) 44 33 36 hA6 hS6
      (by norm_num) (by norm_num)
  · rw [hT6]
    exact byteSpec_mid 44 A6 v6 S6 (8 * 44 - 264 - 44) 44 34 28 hA6 hS6
      (by norm_num) (by norm_num)
  · rw [hT6]
    exact byteSpec_mid 44 A6 v6 S6 (8 * 44 - 264 - 44) 44 35 20 hA6 hS6
      (by norm_num) (by norm_num)
  · rw [hT6]
    exact byteSpec_mid 44 A6 v6 S6 (8 * 44 - 264 - 44) 44 36 12 hA6 hS6
      (by norm_num) (by norm_num)
  · rw [hT6]
    exact byteSpec_mid 44 A6 v6 S6 (8 * 44 - 264 - 44) 44 37 4 hA6 hS6
      (by norm_num) (by norm_num)
  · rw [hU6]
    exact byteSpec_bnd 44 B6 v6 v7 R6 (8 * 44 - 264 - 44 - 44) 38 4 4 40 15 15 44 hB6 hv6 hv7 hR6
      (by norm_num) (by norm_num) (by norm_num) (by norm_num) (by norm_num)
  · rw [hT7]
    exact byteSpec_mid 44 A7 v7 S7 (8 * 44 - 308 - 44) 44 39 32 hA7 hS7
      (by norm_num) (by norm_num)
  · rw [hT7]
    exact byteSpec_mid 44 A7 v7 S7 (8 * 44 - 308 - 44) 44 40 24 hA7 hS7
      (by norm_num) (by norm_num)
  · rw [hT7]
    exact byteSpec_mid 44 A7 v7 S7 (8 * 44 - 308 - 44) 44 41 16 hA7 hS7
      (by norm_num) (by norm_num)
  · rw [hT7]
    exact byteSpec_mid 44 A7 v7 S7 (8 * 44 - 308 - 44) 44 42 8 hA7 hS7
      (by norm_num) (by norm_num)
  · rw [hT7]
    exact byteSpec_mid0 44 A7 v7 S7 (8 * 44 - 308 - 44) 44 43 hA7 hS7
      (by norm_num) (by norm_num)

set_option maxRecDepth 16000 in
set_option maxHeartbeats 1000000 in
theorem c5_pack_eq_45 (v0 v1 v2 v3 v4 v5 v6 v7 : Nat) (hv0 : v0 < 2 ^ 45) (hv1 : v1 < 2 ^ 45) (hv2 : v2 < 2 ^ 45) (hv3 : v3 < 2 ^ 45) (hv4 : v4 < 2 ^ 45) (hv5 : v5 < 2 ^ 45) (hv6 : v6 < 2 ^ 45) (hv7 : v7 < 2 ^ 45) :
    (packSeq (BitPacker.new (List.replicate 45 0)) [(v0, 45), (v1, 45), (v2, 45), (v3, 45), (v4, 45), (v5, 45), (v6, 45), (v7, 45)]).bytes
      = pack_bits_45 v0 v1 v2 v3 v4 v5 v6 v7 := by
  have hvs : ∀ p ∈ ([(v0, 45), (v1, 45), (v2, 45), (v3, 45), (v4, 45), (v5, 45), (v6, 45), (v7, 45)] : List (Nat × Nat)), p.1 < 2 ^ p.2 := by
    intro p hp
    simp only [List.mem_cons, List.not_mem_nil, or_false] at hp
    rcases hp with rfl | rfl | rfl | rfl | rfl | rfl | rfl | rfl
    exacts [hv0, hv1, hv2, hv3, hv4, hv5, hv6, hv7]
  obtain ⟨-, -, -, ⟨hlen, hbytes⟩, -, -⟩ :=
    packSeq_inv 45 [(v0, 45), (v1, 45), (v2, 45), (v3, 45), (v4, 45), (v5, 45), (v6, 45), (v7, 45)] 0 0 _ hvs
      (by norm_num [List.map_cons, List.map_nil, List.sum_cons, List.sum_nil]) (packInv_init 45)
  have key : (packSeq (BitPacker.new (List.replicate 45 0)) [(v0, 45), (v1, 45), (v2, 45), (v3, 45), (v4, 45), (v5, 45), (v6, 45), (v7, 45)]).bytes
      = [ ByteSpec 45 (streamT 45 [(v0, 45), (v1, 45), (v2, 45), (v3, 45), (v4, 45), (v5, 45), (v6, 45), (v7, 45)] 0 0) 0,
          ByteSpec 45 (streamT 45 [(v0, 45), (v1, 45), (v2, 45), (v3, 45), (v4, 45), (v5, 45), (v6, 45), (v7, 45)] 0 0) 1,
          ByteSpec 45 (streamT 45 [(v0, 45), (v1, 45), (v2, 45), (v3, 45), (v4, 45), (v5, 45), (v6, 45), (v7, 45)] 0 0) 2,
          ByteSpec 45 (streamT 45 [(v0, 45), (v1, 45), (v2, 45), (v3, 45), (v4, 45), (v5, 45), (v6, 45), (v7, 45)] 0 0) 3,
          ByteSpec 45 (streamT 45 [(v0, 45), (v1, 45), (v2, 45), (v3, 45), (v4, 45), (v5, 45), (v6, 45), (v7, 45)] 0 0) 4,
          ByteSpec 45 (streamT 45 [(v0, 45), (v1, 45), (v2, 45), (v3, 45), (v4, 45), (v5, 45), (v6, 45), (v7, 45)] 0 0) 5,
          ByteSpec 45 (streamT 45 [(v0, 45), (v1, 45), (v2, 45), (v3, 45), (v4, 45), (v5, 45), (v6, 45), (v7, 45)] 0 0) 6,
          ByteSpec 45 (streamT 45 [(v0, 45), (v1, 45), (v2, 45), (v3, 45), (v4, 45), (v5, 45), (v6, 45), (v7, 45)] 0 0) 7,
          ByteSpec 45 (streamT 45 [(v0, 45), (v1, 45), (v2, 45), (v3, 45), (v4, 45), (v5, 45), (v6, 45), (v7, 45)] 0 0) 8,
          ByteSpec 45 (streamT 45 [(v0, 45), (v1, 45), (v2, 45), (v3, 45), (v4, 45), (v5, 45), (v6, 45), (v7, 45)] 0 0) 9,
          ByteSpec 45 (streamT 45 [(v0, 45), (v1, 45), (v2, 45), (v3, 45), (v4, 45), (v5, 45), (v6, 45), (v7, 45)] 0 0) 10,
          ByteSpec 45 (streamT 45 [(v0, 45), (v1, 45), (v2, 45), (v3, 45), (v4, 45), (v5, 45), (v6, 45), (v7, 45)] 0 0) 11,
          ByteSpec 45 (streamT 45 [(v0, 45), (v1, 45), (v2, 45), (v3, 45), (v4, 45), (v5, 45), (v6, 45), (v7, 45)] 0 0) 12,
          ByteSpec 45 (streamT 45 [(v0, 45), (v1, 45), (v2, 45), (v3, 45), (v4, 45), (v5, 45), (v6, 45), (v7, 45)] 0 0) 13,
          ByteSpec 45 (streamT 45 [(v0, 45), (v1, 45), (v2, 45), (v3, 45), (v4, 45), (v5, 45), (v6, 45), (v7, 45)] 0 0) 14,
          ByteSpec 45 (streamT 45 [(v0, 45), (v1, 45), (v2, 45), (v3, 45), (v4, 45), (v5, 45), (v6, 45), (v7, 45)] 0 0) 15,
          ByteSpec 45 (streamT 45 [(v0, 45), (v1, 45), (v2, 45), (v3, 45), (v4, 45), (v5, 45), (v6, 45), (v7, 45)] 0 0) 16,
          ByteSpec 45 (streamT 45 [(v0, 45), (v1, 45), (v2, 45), (v3, 45), (v4, 45), (v5, 45), (v6, 45), (v7, 45)] 0 0) 17,
          ByteSpec 45 (streamT 45 [(v0, 45), (v1, 45), (v2, 45), (v3, 45), (v4, 45), (v5, 45), (v6, 45), (v7, 45)] 0 0) 18,
          ByteSpec 45 (streamT 45 [(v0, 45), (v1, 45), (v2, 45), (v3, 45), (v4, 45), (v5, 45), (v6, 45), (v7, 45)] 0 0) 19,
          ByteSpec 45 (streamT 45 [(v0, 45), (v1, 45), (v2, 45), (v3, 45), (v4, 45), (v5, 45), (v6, 45), (v7, 45)] 0 0) 20,
          ByteSpec 45 (streamT 45 [(v0, 45), (v1, 45), (v2, 45), (v3, 45), (v4, 45), (v5, 45), (v6, 45), (v7, 45)] 0 0) 21,
          ByteSpec 45 (streamT 45 [(v0, 45), (v1, 45), (v2, 45), (v3, 45), (v4, 45), (v5, 45), (v6, 45), (v7, 45)] 0 0) 22,
          ByteSpec 45 (streamT 45 [(v0, 45), (v1, 45), (v2, 45), (v3, 45), (v4, 45), (v5, 45), (v6, 45), (v7, 45)] 0 0) 23,
          ByteSpec 45 (streamT 45 [(v0, 45), (v1, 45), (v2, 45), (v3, 45), (v4, 45), (v5, 45), (v6, 45), (v7, 45)] 0 0) 24,
          ByteSpec 45 (streamT 45 [(v0, 45), (v1, 45), (v2, 45), (v3, 45), (v4, 45), (v5, 45), (v6, 45), (v7, 45)] 0 0) 25,
          ByteSpec 45 (streamT 45 [(v0, 45), (v1, 45), (v2, 45), (v3, 45), (v4, 45), (v5, 45), (v6, 45), (v7, 45)] 0 0) 26,
          ByteSpec 45 (streamT 45 [(v0, 45), (v1, 45), (v2, 45), (v3, 45), (v4, 45), (v5, 45), (v6, 45), (v7, 45)] 0 0) 27,
          ByteSpec 45 (streamT 45 [(v0, 45), (v1, 45), (v2, 45), (v3, 45), (v4, 45), (v5, 45), (v6, 45), (v7, 45)] 0 0) 28,
          ByteSpec 45 (streamT 45 [(v0, 45), (v1, 45), (v2, 45), (v3, 45), (v4, 45), (v5, 45), (v6, 45), (v7, 45)] 0 0) 29,
          ByteSpec 45 (streamT 45 [(v0, 45), (v1, 45), (v2, 45), (v3, 45), (v4, 45), (v5, 45), (v6, 45), (v7, 45)] 0 0) 30,
          ByteSpec 45 (streamT 45 [(v0, 45), (v1, 45), (v2, 45), (v3, 45), (v4, 45), (v5, 45), (v6, 45), (v7, 45)] 0 0) 31,
          ByteSpec 45 (streamT 45 [(v0, 45), (v1, 45), (v2, 45), (v3, 45), (v4, 45), (v5, 45), (v6, 45), (v7, 45)] 0 0) 32,
          ByteSpec 45 (streamT 45 [(v0, 45), (v1, 45), (v2, 45), (v3, 45), (v4, 45), (v5, 45), (v6, 45), (v7, 45)] 0 0) 33,
          ByteSpec 45 (streamT 45 [(v0, 45), (v1, 45), (v2, 45), (v3, 45), (v4, 45), (v5, 45), (v6, 45), (v7, 45)] 0 0) 34,
          ByteSpec 45 (streamT 45 [(v0, 45), (v1, 45), (v2, 45), (v3, 45), (v4, 45), (v5, 45), (v6, 45), (v7, 45)] 0 0) 35,
          ByteSpec 45 (streamT 45 [(v0, 45), (v1, 45), (v2, 45), (v3, 45), (v4, 45), (v5, 45), (v6, 45), (v7, 45)] 0 0) 36,
          ByteSpec 45 (streamT 45 [(v0, 45), (v1, 45), (v2, 45), (v3, 45), (v4, 45), (v5, 45), (v6, 45), (v7, 45)] 0 0) 37,
          ByteSpec 45 (streamT 45 [(v0, 45), (v1, 45), (v2, 45), (v3, 45), (v4, 45), (v5, 45), (v6, 45), (v7, 45)] 0 0) 38,
          ByteSpec 45 (streamT 45 [(v0, 45), (v1, 45), (v2, 45), (v3, 45), (v4, 45), (v5, 45), (v6, 45), (v7, 45)] 0 0) 39,
          ByteSpec 45 (streamT 45 [(v0, 45), (v1, 45), (v2, 45), (v3, 45), (v4, 45), (v5, 45), (v6, 45), (v7, 45)] 0 0) 40,
          ByteSpec 45 (streamT 45 [(v0, 45), (v1, 45), (v2, 45), (v3, 45), (v4, 45), (v5, 45), (v6, 45), (v7, 45)] 0 0) 41,
          ByteSpec 45 (streamT 45 [(v0, 45), (v1, 45), (v2, 45), (v3, 45), (v4, 45), (v5, 45), (v6, 45), (v7, 45)] 0 0) 42,
          ByteSpec 45 (streamT 45 [(v0, 45), (v1, 45), (v2, 45), (v3, 45), (v4, 45), (v5, 45), (v6, 45), (v7, 45)] 0 0) 43,
          ByteSpec 45 (streamT 45 [(v0, 45), (v1, 45), (v2, 45), (v3, 45), (v4, 45), (v5, 45), (v6, 45), (v7, 45)] 0 0) 44 ] :=
    (list_eq_map_range_of_getD _ _ 45 hlen hbytes).trans (by rfl)
  have key2 : pack_bits_45 v0 v1 v2 v3 v4 v5 v6 v7
      = [ u8 (((v0 >>> 37) &&& 0xff)),
          u8 (((v0 >>> 29) &&& 0xff)),
          u8 (((v0 >>> 21) &&& 0xff)),
          u8 (((v0 >>> 13) &&& 0xff)),
          u8 (((v0 >>> 5) &&& 0xff)),
          u8 (((((v0) &&& 0x1f) <<< 3) ||| ((v1 >>> 42) &&& 0x7))),
          u8 (((v1 >>> 34) &&& 0xff)),
          u8 (((v1 >>> 26) &&& 0xff)),
          u8 (((v1 >>> 18) &&& 0xff)),
          u8 (((v1 >>> 10) &&& 0xff)),
          u8 (((v1 >>> 2) &&& 0xff)),
          u8 (((((v1) &&& 0x3) <<< 6) ||| ((v2 >>> 39) &&& 0x3f))),
          u8 (((v2 >>> 31) &&& 0xff)),
          u8 (((v2 >>> 23) &&& 0xff)),
          u8 (((v2 >>> 15) &&& 0xff)),
          u8 (((v2 >>> 7) &&& 0xff)),
          u8 (((((v2) &&& 0x7f) <<< 1) ||| ((v3 >>> 44) &&& 0x1))),
          u8 (((v3 >>> 36) &&& 0xff)),
          u8 (((v3 >>> 28) &&& 0xff)),
          u8 (((v3 >>> 20) &&& 0xff)),
          u8 (((v3 >>> 12) &&& 0xff)),
          u8 (((v3 >>> 4) &&& 0xff)),
          u8 (((((v3) &&& 0xf) <<< 4) ||| ((v4 >>> 41) &&& 0xf))),
          u8 (((v4 >>> 33) &&& 0xff)),
          u8 (((v4 >>> 25) &&& 0xff)),
          u8 (((v4 >>> 17) &&& 0xff)),
          u8 (((v4 >>> 9) &&& 0xff)),
          u8 (((v4 >>> 1) &&& 0xff)),
          u8 (((((v4) &&& 0x1) <<< 7) ||| ((v5 >>> 38) &&& 0x7f))),
          u8 (((v5 >>> 30) &&& 0xff)),
          u8 (((v5 >>> 22) &&& 0xff)),
          u8 (((v5 >>> 14) &&& 0xff)),
          u8 (((v5 >>> 6) &&& 0xff)),
          u8 (((((v5) &&& 0x3f) <<< 2) ||| ((v6 >>> 43) &&& 0x3))),
          u8 (((v6 >>> 35) &&& 0xff)),
          u8 (((v6 >>> 27) &&& 0xff)),
          u8 (((v6 >>> 19) &&& 0xff)),
          u8 (((v6 >>> 11) &&& 0xff)),
          u8 (((v6 >>> 3) &&& 0xff)),
          u8 (((((v6) &&& 0x7) <<< 5) ||| ((v7 >>> 40) &&& 0x1f))),
          u8 (((v7 >>> 32) &&& 0xff)),
          u8 (((v7 >>> 24) &&& 0xff)),
          u8 (((v7 >>> 16) &&& 0xff)),
          u8 (((v7 >>> 8) &&& 0xff)),
          u8 (((v7) &&& 0xff)) ] := rfl
  obtain ⟨A0, S0, hT0, hA0, hS0⟩ :=
    streamT_decomp 45 [(v0, 45), (v1, 45), (v2, 45), (v3, 45), (v4, 45), (v5, 45), (v6, 45), (v7, 45)] [] [(v1, 45), (v2, 45), (v3, 45), (v4, 45), (v5, 45), (v6, 45), (v7, 45)] v0 45 0 rfl rfl hvs
      (by norm_num [List.map_cons, List.map_nil, List.sum_cons, List.sum_nil])
  obtain ⟨A1, S1, hT1, hA1, hS1⟩ :=
    streamT_decomp 45 [(v0, 45), (v1, 45), (v2, 45), (v3, 45), (v4, 45), (v5, 45), (v6, 45), (v7, 45)] [(v0, 45)] [(v2, 45), (v3, 45), (v4, 45), (v5, 45), (v6, 45), (v7, 45)] v1 45 45 rfl rfl hvs
      (by norm_num [List.map_cons, List.map_nil, List.sum_cons, List.sum_nil])
  obtain ⟨A2, S2, hT2, hA2, hS2⟩ :=
    streamT_decomp 45 [(v0, 45), (v1, 45), (v2, 45), (v3, 45), (v4, 45), (v5, 45), (v6, 45), (v7, 45)] [(v0, 45), (v1, 45)] [(v3, 45), (v4, 45), (v5, 45), (v6, 45), (v7, 45)] v2 45 90 rfl rfl hvs
      (by norm_num [List.map_cons, List.map_nil, List.sum_cons, List.sum_nil])
  obtain ⟨A3, S3, hT3, hA3, hS3⟩ :=
    streamT_decomp 45 [(v0, 45), (v1, 45), (v2, 45), (v3, 45), (v4, 45), (v5, 45), (v6, 45), (v7, 45)] [(v0, 45), (v1, 45), (v2, 45)] [(v4, 45), (v5, 45), (v6, 45), (v7, 45)] v3 45 135 rfl rfl hvs
      (by norm_num [List.map_cons, List.map_nil, List.sum_cons, List.sum_nil])
  obtain ⟨A4, S4, hT4, hA4, hS4⟩ :=
    streamT_decomp 45 [(v0, 45), (v1, 45), (v2, 45), (v3, 45), (v4, 45), (v5, 45), (v6, 45), (v7, 45)] [(v0, 45), (v1, 45), (v2, 45), (v3, 45)] [(v5, 45), (v6, 45), (v7, 45)] v4 45 180 rfl rfl hvs
      (by norm_num [List.map_cons, List.map_nil, List.sum_cons, List.sum_nil])
  obtain ⟨A5, S5, hT5, hA5, hS5⟩ :=
    streamT_decomp 45 [(v0, 45), (v1, 45), (v2, 45), (v3, 45), (v4, 45), (v5, 45), (v6, 45), (v7, 45)] [(v0, 45), (v1, 45), (v2, 45), (v3, 45), (v4, 45)] [(v6, 45), (v7, 45)] v5 45 225 rfl rfl hvs
      (by norm_num [List.map_cons, List.map_nil, List.sum_cons, List.sum_nil])
  obtain ⟨A6, S6, hT6, hA6, hS6⟩ :=
    streamT_decomp 45 [(v0, 45), (v1, 45), (v2, 45), (v3, 45), (v4, 45), (v5, 45), (v6, 45), (v7, 45)] [(v0, 45), (v1, 45), (v2, 45), (v3, 45), (v4, 45), (v5, 45)] [(v7, 45)] v6 45 270 rfl rfl hvs
      (by norm_num [List.map_cons, List.map_nil, List.sum_cons, List.sum_nil])
  obtain ⟨A7, S7, hT7, hA7, hS7⟩ :=
    streamT_decomp 45 [(v0, 45), (v1, 45), (v2, 45), (v3, 45), (v4, 45), (v5, 45), (v6, 45), (v7, 45)] [(v0, 45), (v1, 45), (v2, 45), (v3, 45), (v4, 45), (v5, 45), (v6, 45)] [] v7 45 315 rfl rfl hvs
      (by norm_num [List.map_cons, List.map_nil, List.sum_cons, List.sum_nil])
  obtain ⟨B0, R0, hU0, hB0, hR0⟩ :=
    streamT_decomp2 45 [(v0, 45), (v1, 45), (v2, 45), (v3, 45), (v4, 45), (v5, 45), (v6, 45), (v7, 45)] [] [(v2, 45), (v3, 45), (v4, 45), (v5, 45), (v6, 45), (v7, 45)] v0 v1 45 45 0 rfl rfl hvs
      (by norm_num [List.map_cons, List.map_nil, List.sum_cons, List.sum_nil])
  obtain ⟨B1, R1, hU1, hB1, hR1⟩ :=
    streamT_decomp2 45 [(v0, 45), (v1, 45), (v2, 45), (v3, 45), (v4, 45), (v5, 45), (v6, 45), (v7, 45)] [(v0, 45)] [(v3, 45), (v4, 45), (v5, 45), (v6, 45), (v7, 45)] v1 v2 45 45 45 rfl rfl hvs
      (by norm_num [List.map_cons, List.map_nil, List.sum_cons, List.sum_nil])
  obtain ⟨B2, R2, hU2, hB2, hR2⟩ :=
    streamT_decomp2 45 [(v0, 45), (v1, 45), (v2, 45), (v3, 45), (v4, 45), (v5, 45), (v6, 45), (v7, 45)] [(v0, 45), (v1, 45)] [(v4, 45), (v5, 45), (v6, 45), (v7, 45)] v2 v3 45 45 90 rfl rfl hvs
      (by norm_num [List.map_cons, List.map_nil, List.sum_cons, List.sum_nil])
  obtain ⟨B3, R3, hU3, hB3, hR3⟩ :=
    streamT_decomp2 45 [(v0, 45), (v1, 45), (v2, 45), (v3, 45), (v4, 45), (v5, 45), (v6, 45), (v7, 45)] [(v0, 45), (v1, 45), (v2, 45)] [(v5, 45), (v6, 45), (v7, 45)] v3 v4 45 45 135 rfl rfl hvs
      (by norm_num [List.map_cons, List.map_nil, List.sum_cons, List.sum_nil])
  obtain ⟨B4, R4, hU4, hB4, hR4⟩ :=
    streamT_decomp2 45 [(v0, 45), (v1, 45), (v2, 45), (v3, 45), (v4, 45), (v5, 45), (v6, 45), (v7, 45)] [(v0, 45), (v1, 45), (v2, 45), (v3, 45)] [(v6, 45), (v7, 45)] v4 v5 45 45 180 rfl rfl hvs
      (by norm_num [List.map_cons, List.map_nil, List.sum_cons, List.sum_nil])
  obtain ⟨B5, R5, hU5, hB5, hR5⟩ :=
    streamT_decomp2 45 [(v0, 45), (v1, 45), (v2, 45), (v3, 45), (v4, 45), (v5, 45), (v6, 45), (v7, 45)] [(v0, 45), (v1, 45), (v2, 45), (v3, 45), (v4, 45)] [(v7, 45)] v5 v6 45 45 225 rfl rfl hvs
      (by norm_num [List.map_cons, List.map_nil, List.sum_cons, List.sum_nil])
  obtain ⟨B6, R6, hU6, hB6, hR6⟩ :=
    streamT_decomp2 45 [(v0, 45), (v1, 45), (v2, 45), (v3, 45), (v4, 45), (v5, 45), (v6, 45), (v7, 45)] [(v0, 45), (v1, 45), (v2, 45), (v3, 45), (v4, 45), (v5, 45)] [] v6 v7 45 45 270 rfl rfl hvs
      (by norm_num [List.map_cons, List.map_nil, List.sum_cons, List.sum_nil])
  rw [key, key2]
  simp only [List.cons.injEq]
  refine ⟨?_, ?_, ?_, ?_, ?_, ?_, ?_, ?_, ?_, ?_, ?_, ?_, ?_, ?_, ?_, ?_, ?_, ?_, ?_, ?_, ?_, ?_, ?_, ?_, ?_, ?_, ?_, ?_, ?_, ?_, ?_, ?_, ?_, ?_, ?_, ?_, ?_, ?_, ?_, ?_, ?_, ?_, ?_, ?_, ?_, trivial⟩
  · rw [hT0]
    exact byteSpec_mid 45 A0 v0 S0 (8 * 45 - 0 - 45) 45 0 37 hA0 hS0
      (by norm_num) (by norm_num)
  · rw [hT0]
    exact byteSpec_mid 45 A0 v0 S0 (8 * 45 - 0 - 45) 45 1 29 hA0 hS0
      (by norm_num) (by norm_num)
  · rw [hT0]
    exact byteSpec_mid 45 A0 v0 S0 (8 * 45 - 0 - 45) 45 2 21 hA0 hS0
      (by norm_num) (by norm_num)
  · rw [hT0]
    exact byteSpec_mid 45 A0 v0 S0 (8 * 45 - 0 - 45) 45 3 13 hA0 hS0
      (by norm_num) (by norm_num)
  · rw [hT0]
    exact byteSpec_mid 45 A0 v0 S0 (8 * 45 - 0 - 45) 45 4 5 hA0 hS0
      (by norm_num) (by norm_num)
  · rw [hU0]
    exact byteSpec_bnd 45 B0 v0 v1 R0 (8 * 45 - 0 - 45 - 45) 5 5 3 42 31 7 45 hB0 hv0 hv1 hR0
      (by norm_num) (by norm_num) (by norm_num) (by norm_num) (by norm_num)
  · rw [hT1]
    exact byteSpec_mid 45 A1 v1 S1 (8 * 45 - 45 - 45) 45 6 34 hA1 hS1
      (by norm_num) (by norm_num)
  · rw [hT1]
    exact byteSpec_mid 45 A1 v1 S1 (8 * 45 - 45 - 45) 45 7 26 hA1 hS1
      (by norm_num) (by norm_num)
  · rw [hT1]
    exact byteSpec_mid 45 A1 v1 S1 (8 * 45 - 45 - 45) 45 8 18 hA1 hS1
      (by norm_num) (by norm_num)
  · rw [hT1]
    exact byteSpec_mid 45 A1 v1 S1 (8 * 45 - 45 - 45) 45 9 10 hA1 hS1
      (by norm_num) (by norm_num)
  · rw [hT1]
    exact byteSpec_mid 45 A1 v1 S1 (8 * 45 - 45 - 45) 45 10 2 hA1 hS1
      (by norm_num) (by norm_num)
  · rw [hU1]
    exact byteSpec_bnd 45 B1 v1 v2 R1 (8 * 45 - 45 - 45 - 45) 11 2 6 39 3 63 45 hB1 hv1 hv2 hR1
      (by norm_num) (by norm_num) (by norm_num) (by norm_num) (by norm_num)
  · rw [hT2]
    exact byteSpec_mid 45 A2 v2 S2 (8 * 45 - 90 - 45) 45 12 31 hA2 hS2
      (by norm_num) (by norm_num)
  · rw [hT2]
    exact byteSpec_mid 45 A2 v2 S2 (8 * 45 - 90 - 45) 45 13 23 hA2 hS2
      (by norm_num) (by norm_num)
  · rw [hT2]
    exact byteSpec_mid 45 A2 v2 S2 (8 * 45 - 90 - 45) 45 14 15 hA2 hS2
      (by norm_num) (by norm_num)
  · rw [hT2]
    exact byteSpec_mid 45 A2 v2 S2 (8 * 45 - 90 - 45) 45 15 7 hA2 hS2
      (by norm_num) (by norm_num)
  · rw [hU2]
    exact byteSpec_bnd 45 B2 v2 v3 R2 (8 * 45 - 90 - 45 - 45) 16 7 1 44 127 1 45 hB2 hv2 hv3 hR2
      (by norm_num) (by norm_num) (by norm_num) (by norm_num) (by norm_num)
  · rw [hT3]
    exact byteSpec_mid 45 A3 v3 S3 (8 * 45 - 135 - 45) 45 17 36 hA3 hS3
      (by norm_num) (by norm_num)
  · rw [hT3]
    exact byteSpec_mid 45 A3 v3 S3 (8 * 45 - 135 - 45) 45 18 28 hA3 hS3
      (by norm_num) (by norm_num)
  · rw [hT3]
    exact byteSpec_mid 45 A3 v3 S3 (8 * 45 - 135 - 45) 45 19 20 hA3 hS3
      (by norm_num) (by norm_num)
  · rw [hT3]
    exact byteSpec_mid 45 A3 v3 S3 (8 * 45 - 135 - 45) 45 20 12 hA3 hS3
      (by norm_num) (by norm_num)
  · rw [hT3]
    exact byteSpec_mid 45 A3 v3 S3 (8 * 45 - 135 - 45) 45 21 4 hA3 hS3
      (by norm_num) (by norm_num)
  · rw [hU3]
    exact byteSpec_bnd 45 B3 v3 v4 R3 (8 * 45 - 135 - 45 - 45) 22 4 4 41 15 15 45 hB3 hv3 hv4 hR3
      (by norm_num) (by norm_num) (by norm_num) (by norm_num) (by norm_num)
  · rw [hT4]
    exact byteSpec_mid 45 A4 v4 S4 (8 * 45 - 180 - 45) 45 23 33 hA4 hS4
      (by norm_num) (by norm_num)
  · rw [hT4]
    exact byteSpec_mid 45 A4 v4 S4 (8 * 45 - 180 - 45) 45 24 25 hA4 hS4
      (by norm_num) (by norm_num)
  · rw [hT4]
    exact byteSpec_mid 45 A4 v4 S4 (8 * 45 - 180 - 45) 45 25 17 hA4 hS4
      (by norm_num) (by norm_num)
  · rw [hT4]
    exact byteSpec_mid 45 A4 v4 S4 (8 * 45 - 180 - 45) 45 26 9 hA4 hS4
      (by norm_num) (by norm_num)
  · rw [hT4]
    exact byteSpec_mid 45 A4 v4 S4 (8 * 45 - 180 - 45) 45 27 1 hA4 hS4
      (by norm_num) (by norm_num)
  · rw [hU4]
    exact byteSpec_bnd 45 B4 v4 v5 R4 (8 * 45 - 180 - 45 - 45) 28 1 7 38 1 127 45 hB4 hv4 hv5 hR4
      (by norm_num) (by norm_num) (by norm_num) (by norm_num) (by norm_num)
  · rw [hT5]
    exact byteSpec_mid 45 A5 v5 S5 (8 * 45 - 225 - 45) 45 29 30 hA5 hS5
      (by norm_num) (by norm_num)
  · rw [hT5]
    exact byteSpec_mid 45 A5 v5 S5 (8 * 45 - 225 - 45) 45 30 22 hA5 hS5
      (by norm_num) (by norm_num)
  · rw [hT5]
    exact byteSpec_mid 45 A5 v5 S5 (8 * 45 - 225 - 45) 45 31 14 hA5 hS5
      (by norm_num) (by norm_num)
  · rw [hT5]
    exact byteSpec_mid 45 A5 v5 S5 (8 * 45 - 225 - 45) 45 32 6 hA5 hS5
      (by norm_num) (by norm_num)
  · rw [hU5]
    exact byteSpec_bnd 45 B5 v5 v6 R5 (8 * 45 - 225 - 45 - 45) 33 6 2 43 63 3 45 hB5 hv5 hv6 hR5
      (by norm_num) (by norm_num) (by norm_num) (by norm_num) (by norm_num)
  · rw [hT6]
    exact byteSpec_mid 45 A6 v6 S6 (8 * 45 - 270 - 45) 45 34 35 hA6 hS6
      (by norm_num) (by norm_num)
  · rw [hT6]
    exact byteSpec_mid 45 A6 v6 S6 (8 * 45 - 270 - 45) 45 35 27 hA6 hS6
      (by norm_num) (by norm_num)
  · rw [hT6]
    exact byteSpec_mid 45 A6 v6 S6 (8 * 45 - 270 - 45) 45 36 19 hA6 hS6
      (by norm_num) (by norm_num)
  · rw [hT6]
    exact byteSpec_mid 45 A6 v6 S6 (8 * 45 - 270 - 45) 45 37 11 hA6 hS6
      (by norm_num) (by norm_num)
  · rw [hT6]
    exact byteSpec_mid 45 A6 v6 S6 (8 * 45 - 270 - 45) 45 38 3 hA6 hS6
      (by norm_num) (by norm_num)
  · rw [hU6]
    exact byteSpec_bnd 45 B6 v6 v7 R6 (8 * 45 - 270 - 45 - 45) 39 3 5 40 7 31 45 hB6 hv6 hv7 hR6
      (by norm_num) (by norm_num) (by norm_num) (by norm_num) (by norm_num)
  · rw [hT7]
    exact byteSpec_mid 45 A7 v7 S7 (8 * 45 - 315 - 45) 45 40 32 hA7 hS7
      (by norm_num) (by norm_num)
  · rw [hT7]
    exact byteSpec_mid 45 A7 v7 S7 (8 * 45 - 315 - 45) 45 41 24 hA7 hS7
      (by norm_num) (by norm_num)
  · rw [hT7]
    exact byteSpec_mid 45 A7 v7 S7 (8 * 45 - 315 - 45) 45 42 16 hA7 hS7
      (by norm_num) (by norm_num)
  · rw [hT7]
    exact byteSpec_mid 45 A7 v7 S7 (8 * 45 - 315 - 45) 45 43 8 hA7 hS7
      (by norm_num) (by norm_num)
  · rw [hT7]
    exact byteSpec_mid0 45 A7 v7 S7 (8 * 45 - 315 - 45) 45 44 hA7 hS7
      (by norm_num) (by norm_num)

set_option maxRecDepth 16000 in
set_option maxHeartbeats 1000000 in
theorem c5_pack_eq_46 (v0 v1 v2 v3 v4 v5 v6 v7 : Nat) (hv0 : v0 < 2 ^ 46) (hv1 : v1 < 2 ^ 46) (hv2 : v2 < 2 ^ 46) (hv3 : v3 < 2 ^ 46) (hv4 : v4 < 2 ^ 46) (hv5 : v5 < 2 ^ 46) (hv6 : v6 < 2 ^ 46) (hv7 : v7 < 2 ^ 46) :
    (packSeq (BitPacker.new (List.replicate 46 0)) [(v0, 46), (v1, 46), (v2, 46), (v3, 46), (v4, 46), (v5, 46), (v6, 46), (v7, 46)]).bytes
      = pack_bits_46 v0 v1 v2 v3 v4 v5 v6 v7 := by
  have hvs : ∀ p ∈ ([(v0, 46), (v1, 46), (v2, 46), (v3, 46), (v4, 46), (v5, 46), (v6, 46), (v7, 46)] : List (Nat × Nat)), p.1 < 2 ^ p.2 := by
    intro p hp
    simp only [List.mem_cons, List.not_mem_nil, or_false] at hp
    rcases hp with rfl | rfl | rfl | rfl | rfl | rfl | rfl | rfl
    exacts [hv0, hv1, hv2, hv3, hv4, hv5, hv6, hv7]
  obtain ⟨-, -, -, ⟨hlen, hbytes⟩, -, -⟩ :=
    packSeq_inv 46 [(v0, 46), (v1, 46), (v2, 46), (v3, 46), (v4, 46), (v5, 46), (v6, 46), (v7, 46)] 0 0 _ hvs
      (by norm_num [List.map_cons, List.map_nil, List.sum_cons, List.sum_nil]) (packInv_init 46)
  have key : (packSeq (BitPacker.new (List.replicate 46 0)) [(v0, 46), (v1, 46), (v2, 46), (v3, 46), (v4, 46), (v5, 46), (v6, 46), (v7, 46)]).bytes
      = [ ByteSpec 46 (streamT 46 [(v0, 46), (v1, 46), (v2, 46), (v3, 46), (v4, 46), (v5, 46), (v6, 46), (v7, 46)] 0 0) 0,
          ByteSpec 46 (streamT 46 [(v0, 46), (v1, 46), (v2, 46), (v3, 46), (v4, 46), (v5, 46), (v6, 46), (v7, 46)] 0 0) 1,
          ByteSpec 46 (streamT 46 [(v0, 46), (v1, 46), (v2, 46), (v3, 46), (v4, 46), (v5, 46), (v6, 46), (v7, 46)] 0 0) 2,
          ByteSpec 46 (streamT 46 [(v0, 46), (v1, 46), (v2, 46), (v3, 46), (v4, 46), (v5, 46), (v6, 46), (v7, 46)] 0 0) 3,
          ByteSpec 46 (streamT 46 [(v0, 46), (v1, 46), (v2, 46), (v3, 46), (v4, 46), (v5, 46), (v6, 46), (v7, 46)] 0 0) 4,
          ByteSpec 46 (streamT 46 [(v0, 46), (v1, 46), (v2, 46), (v3, 46), (v4, 46), (v5, 46), (v6, 46), (v7, 46)] 0 0) 5,
          ByteSpec 46 (streamT 46 [(v0, 46), (v1, 46), (v2, 46), (v3, 46), (v4, 46), (v5, 46), (v6, 46), (v7, 46)] 0 0) 6,
          ByteSpec 46 (streamT 46 [(v0, 46), (v1, 46), (v2, 46), (v3, 46), (v4, 46), (v5, 46), (v6, 46), (v7, 46)] 0 0) 7,
          ByteSpec 46 (streamT 46 [(v0, 46), (v1, 46), (v2, 46), (v3, 46), (v4, 46), (v5, 46), (v6, 46), (v7, 46)] 0 0) 8,
          ByteSpec 46 (streamT 46 [(v0, 46), (v1, 46), (v2, 46), (v3, 46), (v4, 46), (v5, 46), (v6, 46), (v7, 46)] 0 0) 9,
          ByteSpec 46 (streamT 46 [(v0, 46), (v1, 46), (v2, 46), (v3, 46), (v4, 46), (v5, 46), (v6, 46), (v7, 46)] 0 0) 10,
          ByteSpec 46 (streamT 46 [(v0, 46), (v1, 46), (v2, 46), (v3, 46), (v4, 46), (v5, 46), (v6, 46), (v7, 46)] 0 0) 11,
          ByteSpec 46 (streamT 46 [(v0, 46), (v1, 46), (v2, 46), (v3, 46), (v4, 46), (v5, 46), (v6, 46), (v7, 46)] 0 0) 12,
          ByteSpec 46 (streamT 46 [(v0, 46), (v1, 46), (v2, 46), (v3, 46), (v4, 46), (v5, 46), (v6, 46), (v7, 46)] 0 0) 13,
          ByteSpec 46 (streamT 46 [(v0, 46), (v1, 46), (v2, 46), (v3, 46), (v4, 46), (v5, 46), (v6, 46), (v7, 46)] 0 0) 14,
          ByteSpec 46 (streamT 46 [(v0, 46), (v1, 46), (v2, 46), (v3, 46), (v4, 46), (v5, 46), (v6, 46), (v7, 46)] 0 0) 15,
          ByteSpec 46 (streamT 46 [(v0, 46), (v1, 46), (v2, 46), (v3, 46), (v4, 46), (v5, 46), (v6, 46), (v7, 46)] 0 0) 16,
          ByteSpec 46 (streamT 46 [(v0, 46), (v1, 46), (v2, 46), (v3, 46), (v4, 46), (v5, 46), (v6, 46), (v7, 46)] 0 0) 17,
          ByteSpec 46 (streamT 46 [(v0, 46), (v1, 46), (v2, 46), (v3, 46), (v4, 46), (v5, 46), (v6, 46), (v7, 46)] 0 0) 18,
          ByteSpec 46 (streamT 46 [(v0, 46), (v1, 46), (v2, 46), (v3, 46), (v4, 46), (v5, 46), (v6, 46), (v7, 46)] 0 0) 19,
          ByteSpec 46 (streamT 46 [(v0, 46), (v1, 46), (v2, 46), (v3, 46), (v4, 46), (v5, 46), (v6, 46), (v7, 46)] 0 0) 20,
          ByteSpec 46 (streamT 46 [(v0, 46), (v1, 46), (v2, 46), (v3, 46), (v4, 46), (v5, 46), (v6, 46), (v7, 46)] 0 0) 21,
          ByteSpec 46 (streamT 46 [(v0, 46), (v1, 46), (v2, 46), (v3, 46), (v4, 46), (v5, 46), (v6, 46), (v7, 46)] 0 0) 22,
          ByteSpec 46 (streamT 46 [(v0, 46), (v1, 46), (v2, 46), (v3, 46), (v4, 46), (v5, 46), (v6, 46), (v7, 46)] 0 0) 23,
          ByteSpec 46 (streamT 46 [(v0, 46), (v1, 46), (v2, 46), (v3, 46), (v4, 46), (v5, 46), (v6, 46), (v7, 46)] 0 0) 24,
          ByteSpec 46 (streamT 46 [(v0, 46), (v1, 46), (v2, 46), (v3, 46), (v4, 46), (v5, 46), (v6, 46), (v7, 46)] 0 0) 25,
          ByteSpec 46 (streamT 46 [(v0, 46), (v1, 46), (v2, 46), (v3, 46), (v4, 46), (v5, 46), (v6, 46), (v7, 46)] 0 0) 26,
          ByteSpec 46 (streamT 46 [(v0, 46), (v1, 46), (v2, 46), (v3, 46), (v4, 46), (v5, 46), (v6, 46), (v7, 46)] 0 0) 27,
          ByteSpec 46 (streamT 46 [(v0, 46), (v1, 46), (v2, 46), (v3, 46), (v4, 46), (v5, 46), (v6, 46), (v7, 46)] 0 0) 28,
          ByteSpec 46 (streamT 46 [(v0, 46), (v1, 46), (v2, 46), (v3, 46), (v4, 46), (v5, 46), (v6, 46), (v7, 46)] 0 0) 29,
          ByteSpec 46 (streamT 46 [(v0, 46), (v1, 46), (v2, 46), (v3, 46), (v4, 46), (v5, 46), (v6, 46), (v7, 46)] 0 0) 30,
          ByteSpec 46 (streamT 46 [(v0, 46), (v1, 46), (v2, 46), (v3, 46), (v4, 46), (v5, 46), (v6, 46), (v7, 46)] 0 0) 31,
          ByteSpec 46 (streamT 46 [(v0, 46), (v1, 46), (v2, 46), (v3, 46), (v4, 46), (v5, 46), (v6, 46), (v7, 46)] 0 0) 32,
          ByteSpec 46 (streamT 46 [(v0, 46), (v1, 46), (v2, 46), (v3, 46), (v4, 46), (v5, 46), (v6, 46), (v7, 46)] 0 0) 33,
          ByteSpec 46 (streamT 46 [(v0, 46), (v1, 46), (v2, 46), (v3, 46), (v4, 46), (v5, 46), (v6, 46), (v7, 46)] 0 0) 34,
          ByteSpec 46 (streamT 46 [(v0, 46), (v1, 46), (v2, 46), (v3, 46), (v4, 46), (v5, 46), (v6, 46), (v7, 46)] 0 0) 35,
          ByteSpec 46 (streamT 46 [(v0, 46), (v1, 46), (v2, 46), (v3, 46), (v4, 46), (v5, 46), (v6, 46), (v7, 46)] 0 0) 36,
          ByteSpec 46 (streamT 46 [(v0, 46), (v1, 46), (v2, 46), (v3, 46), (v4, 46), (v5, 46), (v6, 46), (v7, 46)] 0 0) 37,
          ByteSpec 46 (streamT 46 [(v0, 46), (v1, 46), (v2, 46), (v3, 46), (v4, 46), (v5, 46), (v6, 46), (v7, 46)] 0 0) 38,
          ByteSpec 46 (streamT 46 [(v0, 46), (v1, 46), (v2, 46), (v3, 46), (v4, 46), (v5, 46), (v6, 46), (v7, 46)] 0 0) 39,
          ByteSpec 46 (streamT 46 [(v0, 46), (v1, 46), (v2, 46), (v3, 46), (v4, 46), (v5, 46), (v6, 46), (v7, 46)] 0 0) 40,
          ByteSpec 46 (streamT 46 [(v0, 46), (v1, 46), (v2, 46), (v3, 46), (v4, 46), (v5, 46), (v6, 46), (v7, 46)] 0 0) 41,
          ByteSpec 46 (streamT 46 [(v0, 46), (v1, 46), (v2, 46), (v3, 46), (v4, 46), (v5, 46), (v6, 46), (v7, 46)] 0 0) 42,
          ByteSpec 46 (streamT 46 [(v0, 46), (v1, 46), (v2, 46), (v3, 46), (v4, 46), (v5, 46), (v6, 46), (v7, 46)] 0 0) 43,
          ByteSpec 46 (streamT 46 [(v0, 46), (v1, 46), (v2, 46), (v3, 46), (v4, 46), (v5, 46), (v6, 46), (v7, 46)] 0 0) 44,
          ByteSpec 46 (streamT 46 [(v0, 46), (v1, 46), (v2, 46), (v3, 46), (v4, 46), (v5, 46), (v6, 46), (v7, 46)] 0 0) 45 ] :=
    (list_eq_map_range_of_getD _ _ 46 hlen hbytes).trans (by rfl)
  have key2 : pack_bits_46 v0 v1 v2 v3 v4 v5 v6 v7
      = [ u8 (((v0 >>> 38) &&& 0xff)),
          u8 (((v0 >>> 30) &&& 0xff)),
          u8 (((v0 >>> 22) &&& 0xff)),
          u8 (((v0 >>> 14) &&& 0xff)),
          u8 (((v0 >>> 6) &&& 0xff)),
          u8 (((((v0) &&& 0x3f) <<< 2) ||| ((v1 >>> 44) &&& 0x3))),
          u8 (((v1 >>> 36) &&& 0xff)),
          u8 (((v1 >>> 28) &&& 0xff)),
          u8 (((v1 >>> 20) &&& 0xff)),
          u8 (((v1 >>> 12) &&& 0xff)),
          u8 (((v1 >>> 4) &&& 0xff)),
          u8 (((((v1) &&& 0xf) <<< 4) ||| ((v2 >>> 42) &&& 0xf))),
          u8 (((v2 >>> 34) &&& 0xff)),
          u8 (((v2 >>> 26) &&& 0xff)),
          u8 (((v2 >>> 18) &&& 0xff)),
          u8 (((v2 >>> 10) &&& 0xff)),
          u8 (((v2 >>> 2) &&& 0xff)),
          u8 (((((v2) &&& 0x3) <<< 6) ||| ((v3 >>> 40) &&& 0x3f))),
          u8 (((v3 >>> 32) &&& 0xff)),
          u8 (((v3 >>> 24) &&& 0xff)),
          u8 (((v3 >>> 16) &&& 0xff)),
          u8 (((v3 >>> 8) &&& 0xff)),
          u8 (((v3) &&& 0xff)),
          u8 (((v4 >>> 38) &&& 0xff)),
          u8 (((v4 >>> 30) &&& 0xff)),
          u8 (((v4 >>> 22) &&& 0xff)),
          u8 (((v4 >>> 14) &&& 0xff)),
          u8 (((v4 >>> 6) &&& 0xff)),
          u8 (((((v4) &&& 0x3f) <<< 2) ||| ((v5 >>> 44) &&& 0x3))),
          u8 (((v5 >>> 36) &&& 0xff)),
          u8 (((v5 >>> 28) &&& 0xff)),
          u8 (((v5 >>> 20) &&& 0xff)),
          u8 (((v5 >>> 12) &&& 0xff)),
          u8 (((v5 >>> 4) &&& 0xff)),
          u8 (((((v5) &&& 0xf) <<< 4) ||| ((v6 >>> 42) &&& 0xf))),
          u8 (((v6 >>> 34) &&& 0xff)),
          u8 (((v6 >>> 26) &&& 0xff)),
          u8 (((v6 >>> 18) &&& 0xff)),
          u8 (((v6 >>> 10) &&& 0xff)),
          u8 (((v6 >>> 2) &&& 0xff)),
          u8 (((((v6) &&& 0x3) <<< 6) ||| ((v7 >>> 40) &&& 0x3f))),
          u8 (((v7 >>> 32) &&& 0xff)),
          u8 (((v7 >>> 24) &&& 0xff)),
          u8 (((v7 >>> 16) &&& 0xff)),
          u8 (((v7 >>> 8) &&& 0xff)),
          u8 (((v7) &&& 0xff)) ] := rfl
  obtain ⟨A0, S0, hT0, hA0, hS0⟩ :=
    streamT_decomp 46 [(v0, 46), (v1, 46), (v2, 46), (v3, 46), (v4, 46), (v5, 46), (v6, 46), (v7, 46)] [] [(v1, 46), (v2, 46), (v3, 46), (v4, 46), (v5, 46), (v6, 46), (v7, 46)] v0 46 0 rfl rfl hvs
      (by norm_num [List.map_cons, List.map_nil, List.sum_cons, List.sum_nil])
  obtain ⟨A1, S1, hT1, hA1, hS1⟩ :=
    streamT_decomp 46 [(v0, 46), (v1, 46), (v2, 46), (v3, 46), (v4, 46), (v5, 46), (v6, 46), (v7, 46)] [(v0, 46)] [(v2, 46), (v3, 46), (v4, 46), (v5, 46), (v6, 46), (v7, 46)] v1 46 46 rfl rfl hvs
      (by norm_num [List.map_cons, List.map_nil, List.sum_cons, List.sum_nil])
  obtain ⟨A2, S2, hT2, hA2, hS2⟩ :=
    streamT_decomp 46 [(v0, 46), (v1, 46), (v2, 46), (v3, 46), (v4, 46), (v5, 46), (v6, 46), (v7, 46)] [(v0, 46), (v1, 46)] [(v3, 46), (v4, 46), (v5, 46), (v6, 46), (v7, 46)] v2 46 92 rfl rfl hvs
      (by norm_num [List.map_cons, List.map_nil, List.sum_cons, List.sum_nil])
  obtain ⟨A3, S3, hT3, hA3, hS3⟩ :=
    streamT_decomp 46 [(v0, 46), (v1, 46), (v2, 46), (v3, 46), (v4, 46), (v5, 46), (v6, 46), (v7, 46)] [(v0, 46), (v1, 46), (v2, 46)] [(v4, 46), (v5, 46), (v6, 46), (v7, 46)] v3 46 138 rfl rfl hvs
      (by norm_num [List.map_cons, List.map_nil, List.sum_cons, List.sum_nil])
  obtain ⟨A4, S4, hT4, hA4, hS4⟩ :=
    streamT_decomp 46 [(v0, 46), (v1, 46), (v2, 46), (v3, 46), (v4, 46), (v5, 46), (v6, 46), (v7, 46)] [(v0, 46), (v1, 46), (v2, 46), (v3, 46)] [(v5, 46), (v6, 46), (v7, 46)] v4 46 184 rfl rfl hvs
      (by norm_num [List.map_cons, List.map_nil, List.sum_cons, List.sum_nil])
  obtain ⟨A5, S5, hT5, hA5, hS5⟩ :=
    streamT_decomp 46 [(v0, 46), (v1, 46), (v2, 46), (v3, 46), (v4, 46), (v5, 46), (v6, 46), (v7, 46)] [(v0, 46), (v1, 46), (v2, 46), (v3, 46), (v4, 46)] [(v6, 46), (v7, 46)] v5 46 230 rfl rfl hvs
      (by norm_num [List.map_cons, List.map_nil, List.sum_cons, List.sum_nil])
  obtain ⟨A6, S6, hT6, hA6, hS6⟩ :=
    streamT_decomp 46 [(v0, 46), (v1, 46), (v2, 46), (v3, 46), (v4, 46), (v5, 46), (v6, 46), (v7, 46)] [(v0, 46), (v1, 46), (v2, 46), (v3, 46), (v4, 46), (v5, 46)] [(v7, 46)] v6 46 276 rfl rfl hvs
      (by norm_num [List.map_cons, List.map_nil, List.sum_cons, List.sum_nil])
  obtain ⟨A7, S7, hT7, hA7, hS7⟩ :=
    streamT_decomp 46 [(v0, 46), (v1, 46), (v2, 46), (v3, 46), (v4, 46), (v5, 46), (v6, 46), (v7, 46)] [(v0, 46), (v1, 46), (v2, 46), (v3, 46), (v4, 46), (v5, 46), (v6, 46)] [] v7 46 322 rfl rfl hvs
      (by norm_num [List.map_cons, List.map_nil, List.sum_cons, List.sum_nil])
  obtain ⟨B0, R0, hU0, hB0, hR0⟩ :=
    streamT_decomp2 46 [(v0, 46), (v1, 46), (v2, 46), (v3, 46), (v4, 46), (v5, 46), (v6, 46), (v7, 46)] [] [(v2, 46), (v3, 46), (v4, 46), (v5, 46), (v6, 46), (v7, 46)] v0 v1 46 46 0 rfl rfl hvs
      (by norm_num [List.map_cons, List.map_nil, List.sum_cons, List.sum_nil])
  obtain ⟨B1, R1, hU1, hB1, hR1⟩ :=
    streamT_decomp2 46 [(v0, 46), (v1, 46), (v2, 46), (v3, 46), (v4, 46), (v5, 46), (v6, 46), (v7, 46)] [(v0, 46)] [(v3, 46), (v4, 46), (v5, 46), (v6, 46), (v7, 46)] v1 v2 46 46 46 rfl rfl hvs
      (by norm_num [List.map_cons, List.map_nil, List.sum_cons, List.sum_nil])
  obtain ⟨B2, R2, hU2, hB2, hR2⟩ :=
    streamT_decomp2 46 [(v0, 46), (v1, 46), (v2, 46), (v3, 46), (v4, 46), (v5, 46), (v6, 46), (v7, 46)] [(v0, 46), (v1, 46)] [(v4, 46), (v5, 46), (v6, 46), (v7, 46)] v2 v3 46 46 92 rfl rfl hvs
      (by norm_num [List.map_cons, List.map_nil, List.sum_cons, List.sum_nil])
  obtain ⟨B4, R4, hU4, hB4, hR4⟩ :=
    streamT_decomp2 46 [(v0, 46), (v1, 46), (v2, 46), (v3, 46), (v4, 46), (v5, 46), (v6, 46), (v7, 46)] [(v0, 46), (v1, 46), (v2, 46), (v3, 46)] [(v6, 46), (v7, 46)] v4 v5 46 46 184 rfl rfl hvs
      (by norm_num [List.map_cons, List.map_nil, List.sum_cons, List.sum_nil])
  obtain ⟨B5, R5, hU5, hB5, hR5⟩ :=
    streamT_decomp2 46 [(v0, 46), (v1, 46), (v2, 46), (v3, 46), (v4, 46), (v5, 46), (v6, 46), (v7, 46)] [(v0, 46), (v1, 46), (v2, 46), (v3, 46), (v4, 46)] [(v7, 46)] v5 v6 46 46 230 rfl rfl hvs
      (by norm_num [List.map_cons, List.map_nil, List.sum_cons, List.sum_nil])
  obtain ⟨B6, R6, hU6, hB6, hR6⟩ :=
    streamT_decomp2 46 [(v0, 46), (v1, 46), (v2, 46), (v3, 46), (v4, 46), (v5, 46), (v6, 46), (v7, 46)] [(v0, 46), (v1, 46), (v2, 46), (v3, 46), (v4, 46), (v5, 46)] [] v6 v7 46 46 276 rfl rfl hvs
      (by norm_num [List.map_cons, List.map_nil, List.sum_cons, List.sum_nil])
  rw [key, key2]
  simp only [List.cons.injEq]
  refine ⟨?_, ?_, ?_, ?_, ?_, ?_, ?_, ?_, ?_, ?_, ?_, ?_, ?_, ?_, ?_, ?_, ?_, ?_, ?_, ?_, ?_, ?_, ?_, ?_, ?_, ?_, ?_, ?_, ?_, ?_, ?_, ?_, ?_, ?_, ?_, ?_, ?_, ?_, ?_, ?_, ?_, ?_, ?_, ?_, ?_, ?_, trivial⟩
  · rw [hT0]
    exact byteSpec_mid 46 A0 v0 S0 (8 * 46 - 0 - 46) 46 0 38 hA0 hS0
      (by norm_num) (by norm_num)
  · rw [hT0]
    exact byteSpec_mid 46 A0 v0 S0 (8 * 46 - 0 - 46) 46 1 30 hA0 hS0
      (by norm_num) (by norm_num)
  · rw [hT0]
    exact byteSpec_mid 46 A0 v0 S0 (8 * 46 - 0 - 46) 46 2 22 hA0 hS0
      (by norm_num) (by norm_num)
  · rw [hT0]
    exact byteSpec_mid 46 A0 v0 S0 (8 * 46 - 0 - 46) 46 3 14 hA0 hS0
      (by norm_num) (by norm_num)
  · rw [hT0]
    exact byteSpec_mid 46 A0 v0 S0 (8 * 46 - 0 - 46) 46 4 6 hA0 hS0
      (by norm_num) (by norm_num)
  · rw [hU0]
    exact byteSpec_bnd 46 B0 v0 v1 R0 (8 * 46 - 0 - 46 - 46) 5 6 2 44 63 3 46 hB0 hv0 hv1 hR0
      (by norm_num) (by norm_num) (by norm_num) (by norm_num) (by norm_num)
  · rw [hT1]
    exact byteSpec_mid 46 A1 v1 S1 (8 * 46 - 46 - 46) 46 6 36 hA1 hS1
      (by norm_num) (by norm_num)
  · rw [hT1]
    exact byteSpec_mid 46 A1 v1 S1 (8 * 46 - 46 - 46) 46 7 28 hA1 hS1
      (by norm_num) (by norm_num)
  · rw [hT1]
    exact byteSpec_mid 46 A1 v1 S1 (8 * 46 - 46 - 46) 46 8 20 hA1 hS1
      (by norm_num) (by norm_num)
  · rw [hT1]
    exact byteSpec_mid 46 A1 v1 S1 (8 * 46 - 46 - 46) 46 9 12 hA1 hS1
      (by norm_num) (by norm_num)
  · rw [hT1]
    exact byteSpec_mid 46 A1 v1 S1 (8 * 46 - 46 - 46) 46 10 4 hA1 hS1
      (by norm_num) (by norm_num)
  · rw [hU1]
    exact byteSpec_bnd 46 B1 v1 v2 R1 (8 * 46 - 46 - 46 - 46) 11 4 4 42 15 15 46 hB1 hv1 hv2 hR1
      (by norm_num) (by norm_num) (by norm_num) (by norm_num) (by norm_num)
  · rw [hT2]
    exact byteSpec_mid 46 A2 v2 S2 (8 * 46 - 92 - 46) 46 12 34 hA2 hS2
      (by norm_num) (by norm_num)
  · rw [hT2]
    exact byteSpec_mid 46 A2 v2 S2 (8 * 46 - 92 - 46) 46 13 26 hA2 hS2
      (by norm_num) (by norm_num)
  · rw [hT2]
    exact byteSpec_mid 46 A2 v2 S2 (8 * 46 - 92 - 46) 46 14 18 hA2 hS2
      (by norm_num) (by norm_num)
  · rw [hT2]
    exact byteSpec_mid 46 A2 v2 S2 (8 * 46 - 92 - 46) 46 15 10 hA2 hS2
      (by norm_num) (by norm_num)
  · rw [hT2]
    exact byteSpec_mid 46 A2 v2 S2 (8 * 46 - 92 - 46) 46 16 2 hA2 hS2
      (by norm_num) (by norm_num)
  · rw [hU2]
    exact byteSpec_bnd 46 B2 v2 v3 R2 (8 * 46 - 92 - 46 - 46) 17 2 6 40 3 63 46 hB2 hv2 hv3 hR2
      (by norm_num) (by norm_num) (by norm_num) (by norm_num) (by norm_num)
  · rw [hT3]
    exact byteSpec_mid 46 A3 v3 S3 (8 * 46 - 138 - 46) 46 18 32 hA3 hS3
      (by norm_num) (by norm_num)
  · rw [hT3]
    exact byteSpec_mid 46 A3 v3 S3 (8 * 46 - 138 - 46) 46 19 24 hA3 hS3
      (by norm_num) (by norm_num)
  · rw [hT3]
    exact byteSpec_mid 46 A3 v3 S3 (8 * 46 - 138 - 46) 46 20 16 hA3 hS3
      (by norm_num) (by norm_num)
  · rw [hT3]
    exact byteSpec_mid 46 A3 v3 S3 (8 * 46 - 138 - 46) 46 21 8 hA3 hS3
      (by norm_num) (by norm_num)
  · rw [hT3]
    exact byteSpec_mid0 46 A3 v3 S3 (8 * 46 - 138 - 46) 46 22 hA3 hS3
      (by norm_num) (by norm_num)
  · rw [hT4]
    exact byteSpec_mid 46 A4 v4 S4 (8 * 46 - 184 - 46) 46 23 38 hA4 hS4
      (by norm_num) (by norm_num)
  · rw [hT4]
    exact byteSpec_mid 46 A4 v4 S4 (8 * 46 - 184 - 46) 46 24 30 hA4 hS4
      (by norm_num) (by norm_num)
  · rw [hT4]
    exact byteSpec_mid 46 A4 v4 S4 (8 * 46 - 184 - 46) 46 25 22 hA4 hS4
      (by norm_num) (by norm_num)
  · rw [hT4]
    exact byteSpec_mid 46 A4 v4 S4 (8 * 46 - 184 - 46) 46 26 14 hA4 hS4
      (by norm_num) (by norm_num)
  · rw [hT4]
    exact byteSpec_mid 46 A4 v4 S4 (8 * 46 - 184 - 46) 46 27 6 hA4 hS4
      (by norm_num) (by norm_num)
  · rw [hU4]
    exact byteSpec_bnd 46 B4 v4 v5 R4 (8 * 46 - 184 - 46 - 46) 28 6 2 44 63 3 46 hB4 hv4 hv5 hR4
      (by norm_num) (by norm_num) (by norm_num) (by norm_num) (by norm_num)
  · rw [hT5]
    exact byteSpec_mid 46 A5 v5 S5 (8 * 46 - 230 - 46) 46 29 36 hA5 hS5
      (by norm_num) (by norm_num)
  · rw [hT5]
    exact byteSpec_mid 46 A5 v5 S5 (8 * 46 - 230 - 46) 46 30 28 hA5 hS5
      (by norm_num) (by norm_num)
  · rw [hT5]
    exact byteSpec_mid 46 A5 v5 S5 (8 * 46 - 230 - 46) 46 31 20 hA5 hS5
      (by norm_num) (by norm_num)
  · rw [hT5]
    exact byteSpec_mid 46 A5 v5 S5 (8 * 46 - 230 - 46) 46 32 12 hA5 hS5
      (by norm_num) (by norm_num)
  · rw [hT5]
    exact byteSpec_mid 46 A5 v5 S5 (8 * 46 - 230 - 46) 46 33 4 hA5 hS5
      (by norm_num) (by norm_num)
  · rw [hU5]
    exact byteSpec_bnd 46 B5 v5 v6 R5 (8 * 46 - 230 - 46 - 46) 34 4 4 42 15 15 46 hB5 hv5 hv6 hR5
      (by norm_num) (by norm_num) (by norm_num) (by norm_num) (by norm_num)
  · rw [hT6]
    exact byteSpec_mid 46 A6 v6 S6 (8 * 46 - 276 - 46) 46 35 34 hA6 hS6
      (by norm_num) (by norm_num)
  · rw [hT6]
    exact byteSpec_mid 46 A6 v6 S6 (8 * 46 - 276 - 46) 46 36 26 hA6 hS6
      (by norm_num) (by norm_num)
  · rw [hT6]
    exact byteSpec_mid 46 A6 v6 S6 (8 * 46 - 276 - 46) 46 37 18 hA6 hS6
      (by norm_num) (by norm_num)
  · rw [hT6]
    exact byteSpec_mid 46 A6 v6 S6 (8 * 46 - 276 - 46) 46 38 10 hA6 hS6
      (by norm_num) (by norm_num)
  · rw [hT6]
    exact byteSpec_mid 46 A6 v6 S6 (8 * 46 - 276 - 46) 46 39 2 hA6 hS6
      (by norm_num) (by norm_num)
  · rw [hU6]
    exact byteSpec_bnd 46 B6 v6 v7 R6 (8 * 46 - 276 - 46 - 46) 40 2 6 40 3 63 46 hB6 hv6 hv7 hR6
      (by norm_num) (by norm_num) (by norm_num) (by norm_num) (by norm_num)
  · rw [hT7]
    exact byteSpec_mid 46 A7 v7 S7 (8 * 46 - 322 - 46) 46 41 32 hA7 hS7
      (by norm_num) (by norm_num)
  · rw [hT7]
    exact byteSpec_mid 46 A7 v7 S7 (8 * 46 - 322 - 46) 46 42 24 hA7 hS7
      (by norm_num) (by norm_num)
  · rw [hT7]
    exact byteSpec_mid 46 A7 v7 S7 (8 * 46 - 322 - 46) 46 43 16 hA7 hS7
      (by norm_num) (by norm_num)
  · rw [hT7]
    exact byteSpec_mid 46 A7 v7 S7 (8 * 46 - 322 - 46) 46 44 8 hA7 hS7
      (by norm_num) (by norm_num)
  · rw [hT7]
    exact byteSpec_mid0 46 A7 v7 S7 (8 * 46 - 322 - 46) 46 45 hA7 hS7
      (by norm_num) (by norm_num)

set_option maxRecDepth 16000 in
set_option maxHeartbeats 1000000 in
theorem c5_pack_eq_47 (v0 v1 v2 v3 v4 v5 v6 v7 : Nat) (hv0 : v0 < 2 ^ 47) (hv1 : v1 < 2 ^ 47) (hv2 : v2 < 2 ^ 47) (hv3 : v3 < 2 ^ 47) (hv4 : v4 < 2 ^ 47) (hv5 : v5 < 2 ^ 47) (hv6 : v6 < 2 ^ 47) (hv7 : v7 < 2 ^ 47) :
    (packSeq (BitPacker.new (List.replicate 47 0)) [(v0, 47), (v1, 47), (v2, 47), (v3, 47), (v4, 47), (v5, 47), (v6, 47), (v7, 47)]).bytes
      = pack_bits_47 v0 v1 v2 v3 v4 v5 v6 v7 := by
  have hvs : ∀ p ∈ ([(v0, 47), (v1, 47), (v2, 47), (v3, 47), (v4, 47), (v5, 47), (v6, 47), (v7, 47)] : List (Nat × Nat)), p.1 < 2 ^ p.2 := by
    intro p hp
    simp only [List.mem_cons, List.not_mem_nil, or_false] at hp
    rcases hp with rfl | rfl | rfl | rfl | rfl | rfl | rfl | rfl
    exacts [hv0, hv1, hv2, hv3, hv4, hv5, hv6, hv7]
  obtain ⟨-, -, -, ⟨hlen, hbytes⟩, -, -⟩ :=
    packSeq_inv 47 [(v0, 47), (v1, 47), (v2, 47), (v3, 47), (v4, 47), (v5, 47), (v6, 47), (v7, 47)] 0 0 _ hvs
      (by norm_num [List.map_cons, List.map_nil, List.sum_cons, List.sum_nil]) (packInv_init 47)
  have key : (packSeq (BitPacker.new (List.replicate 47 0)) [(v0, 47), (v1, 47), (v2, 47), (v3, 47), (v4, 47), (v5, 47), (v6, 47), (v7, 47)]).bytes
      = [ ByteSpec 47 (streamT 47 [(v0, 47), (v1, 47), (v2, 47), (v3, 47), (v4, 47), (v5, 47), (v6, 47), (v7, 47)] 0 0) 0,
          ByteSpec 47 (streamT 47 [(v0, 47), (v1, 47), (v2, 47), (v3, 47), (v4, 47), (v5, 47), (v6, 47), (v7, 47)] 0 0) 1,
          ByteSpec 47 (streamT 47 [(v0, 47), (v1, 47), (v2, 47), (v3, 47), (v4, 47), (v5, 47), (v6, 47), (v7, 47)] 0 0) 2,
          ByteSpec 47 (streamT 47 [(v0, 47), (v1, 47), (v2, 47), (v3, 47), (v4, 47), (v5, 47), (v6, 47), (v7, 47)] 0 0) 3,
          ByteSpec 47 (streamT 47 [(v0, 47), (v1, 47), (v2, 47), (v3, 47), (v4, 47), (v5, 47), (v6, 47), (v7, 47)] 0 0) 4,
          ByteSpec 47 (streamT 47 [(v0, 47), (v1, 47), (v2, 47), (v3, 47), (v4, 47), (v5, 47), (v6, 47), (v7, 47)] 0 0) 5,
          ByteSpec 47 (streamT 47 [(v0, 47), (v1, 47), (v2, 47), (v3, 47), (v4, 47), (v5, 47), (v6, 47), (v7, 47)] 0 0) 6,
          ByteSpec 47 (streamT 47 [(v0, 47), (v1, 47), (v2, 47), (v3, 47), (v4, 47), (v5, 47), (v6, 47), (v7, 47)] 0 0) 7,
          ByteSpec 47 (streamT 47 [(v0, 47), (v1, 47), (v2, 47), (v3, 47), (v4, 47), (v5, 47), (v6, 47), (v7, 47)] 0 0) 8,
          ByteSpec 47 (streamT 47 [(v0, 47), (v1, 47), (v2, 47), (v3, 47), (v4, 47), (v5, 47), (v6, 47), (v7, 47)] 0 0) 9,
          ByteSpec 47 (streamT 47 [(v0, 47), (v1, 47), (v2, 47), (v3, 47), (v4, 47), (v5, 47), (v6, 47), (v7, 47)] 0 0) 10,
          ByteSpec 47 (streamT 47 [(v0, 47), (v1, 47), (v2, 47), (v3, 47), (v4, 47), (v5, 47), (v6, 47), (v7, 47)] 0 0) 11,
          ByteSpec 47 (streamT 47 [(v0, 47), (v1, 47), (v2, 47), (v3, 47), (v4, 47), (v5, 47), (v6, 47), (v7, 47)] 0 0) 12,
          ByteSpec 47 (streamT 47 [(v0, 47), (v1, 47), (v2, 47), (v3, 47), (v4, 47), (v5, 47), (v6, 47), (v7, 47)] 0 0) 13,
          ByteSpec 47 (streamT 47 [(v0, 47), (v1, 47), (v2, 47), (v3, 47), (v4, 47), (v5, 47), (v6, 47), (v7, 47)] 0 0) 14,
          ByteSpec 47 (streamT 47 [(v0, 47), (v1, 47), (v2, 47), (v3, 47), (v4, 47), (v5, 47), (v6, 47), (v7, 47)] 0 0) 15,
          ByteSpec 47 (streamT 47 [(v0, 47), (v1, 47), (v2, 47), (v3, 47), (v4, 47), (v5, 47), (v6, 47), (v7, 47)] 0 0) 16,
          ByteSpec 47 (streamT 47 [(v0, 47), (v1, 47), (v2, 47), (v3, 47), (v4, 47), (v5, 47), (v6, 47), (v7, 47)] 0 0) 17,
          ByteSpec 47 (streamT 47 [(v0, 47), (v1, 47), (v2, 47), (v3, 47), (v4, 47), (v5, 47), (v6, 47), (v7, 47)] 0 0) 18,
          ByteSpec 47 (streamT 47 [(v0, 47), (v1, 47), (v2, 47), (v3, 47), (v4, 47), (v5, 47), (v6, 47), (v7, 47)] 0 0) 19,
          ByteSpec 47 (streamT 47 [(v0, 47), (v1, 47), (v2, 47), (v3, 47), (v4, 47), (v5, 47), (v6, 47), (v7, 47)] 0 0) 20,
          ByteSpec 47 (streamT 47 [(v0, 47), (v1, 47), (v2, 47), (v3, 47), (v4, 47), (v5, 47), (v6, 47), (v7, 47)] 0 0) 21,
          ByteSpec 47 (streamT 47 [(v0, 47), (v1, 47), (v2, 47), (v3, 47), (v4, 47), (v5, 47), (v6, 47), (v7, 47)] 0 0) 22,
          ByteSpec 47 (streamT 47 [(v0, 47), (v1, 47), (v2, 47), (v3, 47), (v4, 47), (v5, 47), (v6, 47), (v7, 47)] 0 0) 23,
          ByteSpec 47 (streamT 47 [(v0, 47), (v1, 47), (v2, 47), (v3, 47), (v4, 47), (v5, 47), (v6, 47), (v7, 47)] 0 0) 24,
          ByteSpec 47 (streamT 47 [(v0, 47), (v1, 47), (v2, 47), (v3, 47), (v4, 47), (v5, 47), (v6, 47), (v7, 47)] 0 0) 25,
          ByteSpec 47 (streamT 47 [(v0, 47), (v1, 47), (v2, 47), (v3, 47), (v4, 47), (v5, 47), (v6, 47), (v7, 47)] 0 0) 26,
          ByteSpec 47 (streamT 47 [(v0, 47), (v1, 47), (v2, 47), (v3, 47), (v4, 47), (v5, 47), (v6, 47), (v7, 47)] 0 0) 27,
          ByteSpec 47 (streamT 47 [(v0, 47), (v1, 47), (v2, 47), (v3, 47), (v4, 47), (v5, 47), (v6, 47), (v7, 47)] 0 0) 28,
          ByteSpec 47 (streamT 47 [(v0, 47), (v1, 47), (v2, 47), (v3, 47), (v4, 47), (v5, 47), (v6, 47), (v7, 47)] 0 0) 29,
          ByteSpec 47 (streamT 47 [(v0, 47), (v1, 47), (v2, 47), (v3, 47), (v4, 47), (v5, 47), (v6, 47), (v7, 47)] 0 0) 30,
          ByteSpec 47 (streamT 47 [(v0, 47), (v1, 47), (v2, 47), (v3, 47), (v4, 47), (v5, 47), (v6, 47), (v7, 47)] 0 0) 31,
          ByteSpec 47 (streamT 47 [(v0, 47), (v1, 47), (v2, 47), (v3, 47), (v4, 47), (v5, 47), (v6, 47), (v7, 47)] 0 0) 32,
          ByteSpec 47 (streamT 47 [(v0, 47), (v1, 47), (v2, 47), (v3, 47), (v4, 47), (v5, 47), (v6, 47), (v7, 47)] 0 0) 33,
          ByteSpec 47 (streamT 47 [(v0, 47), (v1, 47), (v2, 47), (v3, 47), (v4, 47), (v5, 47), (v6, 47), (v7, 47)] 0 0) 34,
          ByteSpec 47 (streamT 47 [(v0, 47), (v1, 47), (v2, 47), (v3, 47), (v4, 47), (v5, 47), (v6, 47), (v7, 47)] 0 0) 35,
          ByteSpec 47 (streamT 47 [(v0, 47), (v1, 47), (v2, 47), (v3, 47), (v4, 47), (v5, 47), (v6, 47), (v7, 47)] 0 0) 36,
          ByteSpec 47 (streamT 47 [(v0, 47), (v1, 47), (v2, 47), (v3, 47), (v4, 47), (v5, 47), (v6, 47), (v7, 47)] 0 0) 37,
          ByteSpec 47 (streamT 47 [(v0, 47), (v1, 47), (v2, 47), (v3, 47), (v4, 47), (v5, 47), (v6, 47), (v7, 47)] 0 0) 38,
          ByteSpec 47 (streamT 47 [(v0, 47), (v1, 47), (v2, 47), (v3, 47), (v4, 47), (v5, 47), (v6, 47), (v7, 47)] 0 0) 39,
          ByteSpec 47 (streamT 47 [(v0, 47), (v1, 47), (v2, 47), (v3, 47), (v4, 47), (v5, 47), (v6, 47), (v7, 47)] 0 0) 40,
          ByteSpec 47 (streamT 47 [(v0, 47), (v1, 47), (v2, 47), (v3, 47), (v4, 47), (v5, 47), (v6, 47), (v7, 47)] 0 0) 41,
          ByteSpec 47 (streamT 47 [(v0, 47), (v1, 47), (v2, 47), (v3, 47), (v4, 47), (v5, 47), (v6, 47), (v7, 47)] 0 0) 42,
          ByteSpec 47 (streamT 47 [(v0, 47), (v1, 47), (v2, 47), (v3, 47), (v4, 47), (v5, 47), (v6, 47), (v7, 47)] 0 0) 43,
          ByteSpec 47 (streamT 47 [(v0, 47), (v1, 47), (v2, 47), (v3, 47), (v4, 47), (v5, 47), (v6, 47), (v7, 47)] 0 0) 44,
          ByteSpec 47 (streamT 47 [(v0, 47), (v1, 47), (v2, 47), (v3, 47), (v4, 47), (v5, 47), (v6, 47), (v7, 47)] 0 0) 45,
          ByteSpec 47 (streamT 47 [(v0, 47), (v1, 47), (v2, 47), (v3, 47), (v4, 47), (v5, 47), (v6, 47), (v7, 47)] 0 0) 46 ] :=
    (list_eq_map_range_of_getD _ _ 47 hlen hbytes).trans (by rfl)
  have key2 : pack_bits_47 v0 v1 v2 v3 v4 v5 v6 v7
      = [ u8 (((v0 >>> 39) &&& 0xff)),
          u8 (((v0 >>> 31) &&& 0xff)),
          u8 (((v0 >>> 23) &&& 0xff)),
          u8 (((v0 >>> 15) &&& 0xff)),
          u8 (((v0 >>> 7) &&& 0xff)),
          u8 (((((v0) &&& 0x7f) <<< 1) ||| ((v1 >>> 46) &&& 0x1))),
          u8 (((v1 >>> 38) &&& 0xff)),
          u8 (((v1 >>> 30) &&& 0xff)),
          u8 (((v1 >>> 22) &&& 0xff)),
          u8 (((v1 >>> 14) &&& 0xff)),
          u8 (((v1 >>> 6) &&& 0xff)),
          u8 (((((v1) &&& 0x3f) <<< 2) ||| ((v2 >>> 45) &&& 0x3))),
          u8 (((v2 >>> 37) &&& 0xff)),
          u8 (((v2 >>> 29) &&& 0xff)),
          u8 (((v2 >>> 21) &&& 0xff)),
          u8 (((v2 >>> 13) &&& 0xff)),
          u8 (((v2 >>> 5) &&& 0xff)),
          u8 (((((v2) &&& 0x1f) <<< 3) ||| ((v3 >>> 44) &&& 0x7))),
          u8 (((v3 >>> 36) &&& 0xff)),
          u8 (((v3 >>> 28) &&& 0xff)),
          u8 (((v3 >>> 20) &&& 0xff)),
          u8 (((v3 >>> 12) &&& 0xff)),
          u8 (((v3 >>> 4) &&& 0xff)),
          u8 (((((v3) &&& 0xf) <<< 4) ||| ((v4 >>> 43) &&& 0xf))),
          u8 (((v4 >>> 35) &&& 0xff)),
          u8 (((v4 >>> 27) &&& 0xff)),
          u8 (((v4 >>> 19) &&& 0xff)),
          u8 (((v4 >>> 11) &&& 0xff)),
          u8 (((v4 >>> 3) &&& 0xff)),
          u8 (((((v4) &&& 0x7) <<< 5) ||| ((v5 >>> 42) &&& 0x1f))),
          u8 (((v5 >>> 34) &&& 0xff)),
          u8 (((v5 >>> 26) &&& 0xff)),
          u8 (((v5 >>> 18) &&& 0xff)),
          u8 (((v5 >>> 10) &&& 0xff)),
          u8 (((v5 >>> 2) &&& 0xff)),
          u8 (((((v5) &&& 0x3) <<< 6) ||| ((v6 >>> 41) &&& 0x3f))),
          u8 (((v6 >>> 33) &&& 0xff)),
          u8 (((v6 >>> 25) &&& 0xff)),
          u8 (((v6 >>> 17) &&& 0xff)),
          u8 (((v6 >>> 9) &&& 0xff)),
          u8 (((v6 >>> 1) &&& 0xff)),
          u8 (((((v6) &&& 0x1) <<< 7) ||| ((v7 >>> 40) &&& 0x7f))),
          u8 (((v7 >>> 32) &&& 0xff)),
          u8 (((v7 >>> 24) &&& 0xff)),
          u8 (((v7 >>> 16) &&& 0xff)),
          u8 (((v7 >>> 8) &&& 0xff)),
          u8 (((v7) &&& 0xff)) ] := rfl
  obtain ⟨A0, S0, hT0, hA0, hS0⟩ :=
    streamT_decomp 47 [(v0, 47), (v1, 47), (v2, 47), (v3, 47), (v4, 47), (v5, 47), (v6, 47), (v7, 47)] [] [(v1, 47), (v2, 47), (v3, 47), (v4, 47), (v5, 47), (v6, 47), (v7, 47)] v0 47 0 rfl rfl hvs
      (by norm_num [List.map_cons, List.map_nil, List.sum_cons, List.sum_nil])
  obtain ⟨A1, S1, hT1, hA1, hS1⟩ :=
    streamT_decomp 47 [(v0, 47), (v1, 47), (v2, 47), (v3, 47), (v4, 47), (v5, 47), (v6, 47), (v7, 47)] [(v0, 47)] [(v2, 47), (v3, 47), (v4, 47), (v5, 47), (v6, 47), (v7, 47)] v1 47 47 rfl rfl hvs
      (by norm_num [List.map_cons, List.map_nil, List.sum_cons, List.sum_nil])
  obtain ⟨A2, S2, hT2, hA2, hS2⟩ :=
    streamT_decomp 47 [(v0, 47), (v1, 47), (v2, 47), (v3, 47), (v4, 47), (v5, 47), (v6, 47), (v7, 47)] [(v0, 47), (v1, 47)] [(v3, 47), (v4, 47), (v5, 47), (v6, 47), (v7, 47)] v2 47 94 rfl rfl hvs
      (by norm_num [List.map_cons, List.map_nil, List.sum_cons, List.sum_nil])
  obtain ⟨A3, S3, hT3, hA3, hS3⟩ :=
    streamT_decomp 47 [(v0, 47), (v1, 47), (v2, 47), (v3, 47), (v4, 47), (v5, 47), (v6, 47), (v7, 47)] [(v0, 47), (v1, 47), (v2, 47)] [(v4, 47), (v5, 47), (v6, 47), (v7, 47)] v3 47 141 rfl rfl hvs
      (by norm_num [List.map_cons, List.map_nil, List.sum_cons, List.sum_nil])
  obtain ⟨A4, S4, hT4, hA4, hS4⟩ :=
    streamT_decomp 47 [(v0, 47), (v1, 47), (v2, 47), (v3, 47), (v4, 47), (v5, 47), (v6, 47), (v7, 47)] [(v0, 47), (v1, 47), (v2, 47), (v3, 47)] [(v5, 47), (v6, 47), (v7, 47)] v4 47 188 rfl rfl hvs
      (by norm_num [List.map_cons, List.map_nil, List.sum_cons, List.sum_nil])
  obtain ⟨A5, S5, hT5, hA5, hS5⟩ :=
    streamT_decomp 47 [(v0, 47), (v1, 47), (v2, 47), (v3, 47), (v4, 47), (v5, 47), (v6, 47), (v7, 47)] [(v0, 47), (v1, 47), (v2, 47), (v3, 47), (v4, 47)] [(v6, 47), (v7, 47)] v5 47 235 rfl rfl hvs
      (by norm_num [List.map_cons, List.map_nil, List.sum_cons, List.sum_nil])
  obtain ⟨A6, S6, hT6, hA6, hS6⟩ :=
    streamT_decomp 47 [(v0, 47), (v1, 47), (v2, 47), (v3, 47), (v4, 47), (v5, 47), (v6, 47), (v7, 47)] [(v0, 47), (v1, 47), (v2, 47), (v3, 47), (v4, 47), (v5, 47)] [(v7, 47)] v6 47 282 rfl rfl hvs
      (by norm_num [List.map_cons, List.map_nil, List.sum_cons, List.sum_nil])
  obtain ⟨A7, S7, hT7, hA7, hS7⟩ :=
    streamT_decomp 47 [(v0, 47), (v1, 47), (v2, 47), (v3, 47), (v4, 47), (v5, 47), (v6, 47), (v7, 47)] [(v0, 47), (v1, 47), (v2, 47), (v3, 47), (v4, 47), (v5, 47), (v6, 47)] [] v7 47 329 rfl rfl hvs
      (by norm_num [List.map_cons, List.map_nil, List.sum_cons, List.sum_nil])
  obtain ⟨B0, R0, hU0, hB0, hR0⟩ :=
    streamT_decomp2 47 [(v0, 47), (v1, 47), (v2, 47), (v3, 47), (v4, 47), (v5, 47), (v6, 47), (v7, 47)] [] [(v2, 47), (v3, 47), (v4, 47), (v5, 47), (v6, 47), (v7, 47)] v0 v1 47 47 0 rfl rfl hvs
      (by norm_num [List.map_cons, List.map_nil, List.sum_cons, List.sum_nil])
  obtain ⟨B1, R1, hU1, hB1, hR1⟩ :=
    streamT_decomp2 47 [(v0, 47), (v1, 47), (v2, 47), (v3, 47), (v4, 47), (v5, 47), (v6, 47), (v7, 47)] [(v0, 47)] [(v3, 47), (v4, 47), (v5, 47), (v6, 47), (v7, 47)] v1 v2 47 47 47 rfl rfl hvs
      (by norm_num [List.map_cons, List.map_nil, List.sum_cons, List.sum_nil])
  obtain ⟨B2, R2, hU2, hB2, hR2⟩ :=
    streamT_decomp2 47 [(v0, 47), (v1, 47), (v2, 47), (v3, 47), (v4, 47), (v5, 47), (v6, 47), (v7, 47)] [(v0, 47), (v1, 47)] [(v4, 47), (v5, 47), (v6, 47), (v7, 47)] v2 v3 47 47 94 rfl rfl hvs
      (by norm_num [List.map_cons, List.map_nil, List.sum_cons, List.sum_nil])
  obtain ⟨B3, R3, hU3, hB3, hR3⟩ :=
    streamT_decomp2 47 [(v0, 47), (v1, 47), (v2, 47), (v3, 47), (v4, 47), (v5, 47), (v6, 47), (v7, 47)] [(v0, 47), (v1, 47), (v2, 47)] [(v5, 47), (v6, 47), (v7, 47)] v3 v4 47 47 141 rfl rfl hvs
      (by norm_num [List.map_cons, List.map_nil, List.sum_cons, List.sum_nil])
  obtain ⟨B4, R4, hU4, hB4, hR4⟩ :=
    streamT_decomp2 47 [(v0, 47), (v1, 47), (v2, 47), (v3, 47), (v4, 47), (v5, 47), (v6, 47), (v7, 47)] [(v0, 47), (v1, 47), (v2, 47), (v3, 47)] [(v6, 47), (v7, 47)] v4 v5 47 47 188 rfl rfl hvs
      (by norm_num [List.map_cons, List.map_nil, List.sum_cons, List.sum_nil])
  obtain ⟨B5, R5, hU5, hB5, hR5⟩ :=
    streamT_decomp2 47 [(v0, 47), (v1, 47), (v2, 47), (v3, 47), (v4, 47), (v5, 47), (v6, 47), (v7, 47)] [(v0, 47), (v1, 47), (v2, 47), (v3, 47), (v4, 47)] [(v7, 47)] v5 v6 47 47 235 rfl rfl hvs
      (by norm_num [List.map_cons, List.map_nil, List.sum_cons, List.sum_nil])
  obtain ⟨B6, R6, hU6, hB6, hR6⟩ :=
    streamT_decomp2 47 [(v0, 47), (v1, 47), (v2, 47), (v3, 47), (v4, 47), (v5, 47), (v6, 47), (v7, 47)] [(v0, 47), (v1, 47), (v2, 47), (v3, 47), (v4, 47), (v5, 47)] [] v6 v7 47 47 282 rfl rfl hvs
      (by norm_num [List.map_cons, List.map_nil, List.sum_cons, List.sum_nil])
  rw [key, key2]
  simp only [List.cons.injEq]
  refine ⟨?_, ?_, ?_, ?_, ?_, ?_, ?_, ?_, ?_, ?_, ?_, ?_, ?_, ?_, ?_, ?_, ?_, ?_, ?_, ?_, ?_, ?_, ?_, ?_, ?_, ?_, ?_, ?_, ?_, ?_, ?_, ?_, ?_, ?_, ?_, ?_, ?_, ?_, ?_, ?_, ?_, ?_, ?_, ?_, ?_, ?_, ?_, trivial⟩
  · rw [hT0]
    exact byteSpec_mid 47 A0 v0 S0 (8 * 47 - 0 - 47) 47 0 39 hA0 hS0
      (by norm_num) (by norm_num)
  · rw [hT0]
    exact byteSpec_mid 47 A0 v0 S0 (8 * 47 - 0 - 47) 47 1 31 hA0 hS0
      (by norm_num) (by norm_num)
  · rw [hT0]
    exact byteSpec_mid 47 A0 v0 S0 (8 * 47 - 0 - 47) 47 2 23 hA0 hS0
      (by norm_num) (by norm_num)
  · rw [hT0]
    exact byteSpec_mid 47 A0 v0 S0 (8 * 47 - 0 - 47) 47 3 15 hA0 hS0
      (by norm_num) (by norm_num)
  · rw [hT0]
    exact byteSpec_mid 47 A0 v0 S0 (8 * 47 - 0 - 47) 47 4 7 hA0 hS0
      (by norm_num) (by norm_num)
  · rw [hU0]
    exact byteSpec_bnd 47 B0 v0 v1 R0 (8 * 47 - 0 - 47 - 47) 5 7 1 46 127 1 47 hB0 hv0 hv1 hR0
      (by norm_num) (by norm_num) (by norm_num) (by norm_num) (by norm_num)
  · rw [hT1]
    exact byteSpec_mid 47 A1 v1 S1 (8 * 47 - 47 - 47) 47 6 38 hA1 hS1
      (by norm_num) (by norm_num)
  · rw [hT1]
    exact byteSpec_mid 47 A1 v1 S1 (8 * 47 - 47 - 47) 47 7 30 hA1 hS1
      (by norm_num) (by norm_num)
  · rw [hT1]
    exact byteSpec_mid 47 A1 v1 S1 (8 * 47 - 47 - 47) 47 8 22 hA1 hS1
      (by norm_num) (by norm_num)
  · rw [hT1]
    exact byteSpec_mid 47 A1 v1 S1 (8 * 47 - 47 - 47) 47 9 14 hA1 hS1
      (by norm_num) (by norm_num)
  · rw [hT1]
    exact byteSpec_mid 47 A1 v1 S1 (8 * 47 - 47 - 47) 47 10 6 hA1 hS1
      (by norm_num) (by norm_num)
  · rw [hU1]
    exact byteSpec_bnd 47 B1 v1 v2 R1 (8 * 47 - 47 - 47 - 47) 11 6 2 45 63 3 47 hB1 hv1 hv2 hR1
      (by norm_num) (by norm_num) (by norm_num) (by norm_num) (by norm_num)
  · rw [hT2]
    exact byteSpec_mid 47 A2 v2 S2 (8 * 47 - 94 - 47) 47 12 37 hA2 hS2
      (by norm_num) (by norm_num)
  · rw [hT2]
    exact byteSpec_mid 47 A2 v2 S2 (8 * 47 - 94 - 47) 47 13 29 hA2 hS2
      (by norm_num) (by norm_num)
  · rw [hT2]
    exact byteSpec_mid 47 A2 v2 S2 (8 * 47 - 94 - 47) 47 14 21 hA2 hS2
      (by norm_num) (by norm_num)
  · rw [hT2]
    exact byteSpec_mid 47 A2 v2 S2 (8 * 47 - 94 - 47) 47 15 13 hA2 hS2
      (by norm_num) (by norm_num)
  · rw [hT2]
    exact byteSpec_mid 47 A2 v2 S2 (8 * 47 - 94 - 47) 47 16 5 hA2 hS2
      (by norm_num) (by norm_num)
  · rw [hU2]
    exact byteSpec_bnd 47 B2 v2 v3 R2 (8 * 47 - 94 - 47 - 47) 17 5 3 44 31 7 47 hB2 hv2 hv3 hR2
      (by norm_num) (by norm_num) (by norm_num) (by norm_num) (by norm_num)
  · rw [hT3]
    exact byteSpec_mid 47 A3 v3 S3 (8 * 47 - 141 - 47) 47 18 36 hA3 hS3
      (by norm_num) (by norm_num)
  · rw [hT3]
    exact byteSpec_mid 47 A3 v3 S3 (8 * 47 - 141 - 47) 47 19 28 hA3 hS3
      (by norm_num) (by norm_num)
  · rw [hT3]
    exact byteSpec_mid 47 A3 v3 S3 (8 * 47 - 141 - 47) 47 20 20 hA3 hS3
      (by norm_num) (by norm_num)
  · rw [hT3]
    exact byteSpec_mid 47 A3 v3 S3 (8 * 47 - 141 - 47) 47 21 12 hA3 hS3
      (by norm_num) (by norm_num)
  · rw [hT3]
    exact byteSpec_mid 47 A3 v3 S3 (8 * 47 - 141 - 47) 47 22 4 hA3 hS3
      (by norm_num) (by norm_num)
  · rw [hU3]
    exact byteSpec_bnd 47 B3 v3 v4 R3 (8 * 47 - 141 - 47 - 47) 23 4 4 43 15 15 47 hB3 hv3 hv4 hR3
      (by norm_num) (by norm_num) (by norm_num) (by norm_num) (by norm_num)
  · rw [hT4]
    exact byteSpec_mid 47 A4 v4 S4 (8 * 47 - 188 - 47) 47 24 35 hA4 hS4
      (by norm_num) (by norm_num)
  · rw [hT4]
    exact byteSpec_mid 47 A4 v4 S4 (8 * 47 - 188 - 47) 47 25 27 hA4 hS4
      (by norm_num) (by norm_num)
  · rw [hT4]
    exact byteSpec_mid 47 A4 v4 S4 (8 * 47 - 188 - 47) 47 26 19 hA4 hS4
      (by norm_num) (by norm_num)
  · rw [hT4]
    exact byteSpec_mid 47 A4 v4 S4 (8 * 47 - 188 - 47) 47 27 11 hA4 hS4
      (by norm_num) (by norm_num)
  · rw [hT4]
    exact byteSpec_mid 47 A4 v4 S4 (8 * 47 - 188 - 47) 47 28 3 hA4 hS4
      (by norm_num) (by norm_num)
  · rw [hU4]
    exact byteSpec_bnd 47 B4 v4 v5 R4 (8 * 47 - 188 - 47 - 47) 29 3 5 42 7 31 47 hB4 hv4 hv5 hR4
      (by norm_num) (by norm_num) (by norm_num) (by norm_num) (by norm_num)
  · rw [hT5]
    exact byteSpec_mid 47 A5 v5 S5 (8 * 47 - 235 - 47) 47 30 34 hA5 hS5
      (by norm_num) (by norm_num)
  · rw [hT5]
    exact byteSpec_mid 47 A5 v5 S5 (8 * 47 - 235 - 47) 47 31 26 hA5 hS5
      (by norm_num) (by norm_num)
  · rw [hT5]
    exact byteSpec_mid 47 A5 v5 S5 (8 * 47 - 235 - 47) 47 32 18 hA5 hS5
      (by norm_num) (by norm_num)
  · rw [hT5]
    exact byteSpec_mid 47 A5 v5 S5 (8 * 47 - 235 - 47) 47 33 10 hA5 hS5
      (by norm_num) (by norm_num)
  · rw [hT5]
    exact byteSpec_mid 47 A5 v5 S5 (8 * 47 - 235 - 47) 47 34 2 hA5 hS5
      (by norm_num) (by norm_num)
  · rw [hU5]
    exact byteSpec_bnd 47 B5 v5 v6 R5 (8 * 47 - 235 - 47 - 47) 35 2 6 41 3 63 47 hB5 hv5 hv6 hR5
      (by norm_num) (by norm_num) (by norm_num) (by norm_num) (by norm_num)
  · rw [hT6]
    exact byteSpec_mid 47 A6 v6 S6 (8 * 47 - 282 - 47) 47 36 33 hA6 hS6
      (by norm_num) (by norm_num)
  · rw [hT6]
    exact byteSpec_mid 47 A6 v6 S6 (8 * 47 - 282 - 47) 47 37 25 hA6 hS6
      (by norm_num) (by norm_num)
  · rw [hT6]
    exact byteSpec_mid 47 A6 v6 S6 (8 * 47 - 282 - 47) 47 38 17 hA6 hS6
      (by norm_num) (by norm_num)
  · rw [hT6]
    exact byteSpec_mid 47 A6 v6 S6 (8 * 47 - 282 - 47) 47 39 9 hA6 hS6
      (by norm_num) (by norm_num)
  · rw [hT6]
    exact byteSpec_mid 47 A6 v6 S6 (8 * 47 - 282 - 47) 47 40 1 hA6 hS6
      (by norm_num) (by norm_num)
  · rw [hU6]
    exact byteSpec_bnd 47 B6 v6 v7 R6 (8 * 47 - 282 - 47 - 47) 41 1 7 40 1 127 47 hB6 hv6 hv7 hR6
      (by norm_num) (by norm_num) (by norm_num) (by norm_num) (by norm_num)
  · rw [hT7]
    exact byteSpec_mid 47 A7 v7 S7 (8 * 47 - 329 - 47) 47 42 32 hA7 hS7
      (by norm_num) (by norm_num)
  · rw [hT7]
    exact byteSpec_mid 47 A7 v7 S7 (8 * 47 - 329 - 47) 47 43 24 hA7 hS7
      (by norm_num) (by norm_num)
  · rw [hT7]
    exact byteSpec_mid 47 A7 v7 S7 (8 * 47 - 329 - 47) 47 44 16 hA7 hS7
      (by norm_num) (by norm_num)
  · rw [hT7]
    exact byteSpec_mid 47 A7 v7 S7 (8 * 47 - 329 - 47) 47 45 8 hA7 hS7
      (by norm_num) (by norm_num)
  · rw [hT7]
    exact byteSpec_mid0 47 A7 v7 S7 (8 * 47 - 329 - 47) 47 46 hA7 hS7
      (by norm_num) (by norm_num)

set_option maxRecDepth 16000 in
set_option maxHeartbeats 1000000 in
theorem c5_pack_eq_48 (v0 v1 v2 v3 v4 v5 v6 v7 : Nat) (hv0 : v0 < 2 ^ 48) (hv1 : v1 < 2 ^ 48) (hv2 : v2 < 2 ^ 48) (hv3 : v3 < 2 ^ 48) (hv4 : v4 < 2 ^ 48) (hv5 : v5 < 2 ^ 48) (hv6 : v6 < 2 ^ 48) (hv7 : v7 < 2 ^ 48) :
    (packSeq (BitPacker.new (List.replicate 48 0)) [(v0, 48), (v1, 48), (v2, 48), (v3, 48), (v4, 48), (v5, 48), (v6, 48), (v7, 48)]).bytes
      = pack_bits_48 v0 v1 v2 v3 v4 v5 v6 v7 := by
  have hvs : ∀ p ∈ ([(v0, 48), (v1, 48), (v2, 48), (v3, 48), (v4, 48), (v5, 48), (v6, 48), (v7, 48)] : List (Nat × Nat)), p.1 < 2 ^ p.2 := by
    intro p hp
    simp only [List.mem_cons, List.not_mem_nil, or_false] at hp
    rcases hp with rfl | rfl | rfl | rfl | rfl | rfl | rfl | rfl
    exacts [hv0, hv1, hv2, hv3, hv4, hv5, hv6, hv7]
  obtain ⟨-, -, -, ⟨hlen, hbytes⟩, -, -⟩ :=
    packSeq_inv 48 [(v0, 48), (v1, 48), (v2, 48), (v3, 48), (v4, 48), (v5, 48), (v6, 48), (v7, 48)] 0 0 _ hvs
      (by norm_num [List.map_cons, List.map_nil, List.sum_cons, List.sum_nil]) (packInv_init 48)
  have key : (packSeq (BitPacker.new (List.replicate 48 0)) [(v0, 48), (v1, 48), (v2, 48), (v3, 48), (v4, 48), (v5, 48), (v6, 48), (v7, 48)]).bytes
      = [ ByteSpec 48 (streamT 48 [(v0, 48), (v1, 48), (v2, 48), (v3, 48), (v4, 48), (v5, 48), (v6, 48), (v7, 48)] 0 0) 0,
          ByteSpec 48 (streamT 48 [(v0, 48), (v1, 48), (v2, 48), (v3, 48), (v4, 48), (v5, 48), (v6, 48), (v7, 48)] 0 0) 1,
          ByteSpec 48 (streamT 48 [(v0, 48), (v1, 48), (v2, 48), (v3, 48), (v4, 48), (v5, 48), (v6, 48), (v7, 48)] 0 0) 2,
          ByteSpec 48 (streamT 48 [(v0, 48), (v1, 48), (v2, 48), (v3, 48), (v4, 48), (v5, 48), (v6, 48), (v7, 48)] 0 0) 3,
          ByteSpec 48 (streamT 48 [(v0, 48), (v1, 48), (v2, 48), (v3, 48), (v4, 48), (v5, 48), (v6, 48), (v7, 48)] 0 0) 4,
          ByteSpec 48 (streamT 48 [(v0, 48), (v1, 48), (v2, 48), (v3, 48), (v4, 48), (v5, 48), (v6, 48), (v7, 48)] 0 0) 5,
          ByteSpec 48 (streamT 48 [(v0, 48), (v1, 48), (v2, 48), (v3, 48), (v4, 48), (v5, 48), (v6, 48), (v7, 48)] 0 0) 6,
          ByteSpec 48 (streamT 48 [(v0, 48), (v1, 48), (v2, 48), (v3, 48), (v4, 48), (v5, 48), (v6, 48), (v7, 48)] 0 0) 7,
          ByteSpec 48 (streamT 48 [(v0, 48), (v1, 48), (v2, 48), (v3, 48), (v4, 48), (v5, 48), (v6, 48), (v7, 48)] 0 0) 8,
          ByteSpec 48 (streamT 48 [(v0, 48), (v1, 48), (v2, 48), (v3, 48), (v4, 48), (v5, 48), (v6, 48), (v7, 48)] 0 0) 9,
          ByteSpec 48 (streamT 48 [(v0, 48), (v1, 48), (v2, 48), (v3, 48), (v4, 48), (v5, 48), (v6, 48), (v7, 48)] 0 0) 10,
          ByteSpec 48 (streamT 48 [(v0, 48), (v1, 48), (v2, 48), (v3, 48), (v4, 48), (v5, 48), (v6, 48), (v7, 48)] 0 0) 11,
          ByteSpec 48 (streamT 48 [(v0, 48), (v1, 48), (v2, 48), (v3, 48), (v4, 48), (v5, 48), (v6, 48), (v7, 48)] 0 0) 12,
          ByteSpec 48 (streamT 48 [(v0, 48), (v1, 48), (v2, 48), (v3, 48), (v4, 48), (v5, 48), (v6, 48), (v7, 48)] 0 0) 13,
          ByteSpec 48 (streamT 48 [(v0, 48), (v1, 48), (v2, 48), (v3, 48), (v4, 48), (v5, 48), (v6, 48), (v7, 48)] 0 0) 14,
          ByteSpec 48 (streamT 48 [(v0, 48), (v1, 48), (v2, 48), (v3, 48), (v4, 48), (v5, 48), (v6, 48), (v7, 48)] 0 0) 15,
          ByteSpec 48 (streamT 48 [(v0, 48), (v1, 48), (v2, 48), (v3, 48), (v4, 48), (v5, 48), (v6, 48), (v7, 48)] 0 0) 16,
          ByteSpec 48 (streamT 48 [(v0, 48), (v1, 48), (v2, 48), (v3, 48), (v4, 48), (v5, 48), (v6, 48), (v7, 48)] 0 0) 17,
          ByteSpec 48 (streamT 48 [(v0, 48), (v1, 48), (v2, 48), (v3, 48), (v4, 48), (v5, 48), (v6, 48), (v7, 48)] 0 0) 18,
          ByteSpec 48 (streamT 48 [(v0, 48), (v1, 48), (v2, 48), (v3, 48), (v4, 48), (v5, 48), (v6, 48), (v7, 48)] 0 0) 19,
          ByteSpec 48 (streamT 48 [(v0, 48), (v1, 48), (v2, 48), (v3, 48), (v4, 48), (v5, 48), (v6, 48), (v7, 48)] 0 0) 20,
          ByteSpec 48 (streamT 48 [(v0, 48), (v1, 48), (v2, 48), (v3, 48), (v4, 48), (v5, 48), (v6, 48), (v7, 48)] 0 0) 21,
          ByteSpec 48 (streamT 48 [(v0, 48), (v1, 48), (v2, 48), (v3, 48), (v4, 48), (v5, 48), (v6, 48), (v7, 48)] 0 0) 22,
          ByteSpec 48 (streamT 48 [(v0, 48), (v1, 48), (v2, 48), (v3, 48), (v4, 48), (v5, 48), (v6, 48), (v7, 48)] 0 0) 23,
          ByteSpec 48 (streamT 48 [(v0, 48), (v1, 48), (v2, 48), (v3, 48), (v4, 48), (v5, 48), (v6, 48), (v7, 48)] 0 0) 24,
          ByteSpec 48 (streamT 48 [(v0, 48), (v1, 48), (v2, 48), (v3, 48), (v4, 48), (v5, 48), (v6, 48), (v7, 48)] 0 0) 25,
          ByteSpec 48 (streamT 48 [(v0, 48), (v1, 48), (v2, 48), (v3, 48), (v4, 48), (v5, 48), (v6, 48), (v7, 48)] 0 0) 26,
          ByteSpec 48 (streamT 48 [(v0, 48), (v1, 48), (v2, 48), (v3, 48), (v4, 48), (v5, 48), (v6, 48), (v7, 48)] 0 0) 27,
          ByteSpec 48 (streamT 48 [(v0, 48), (v1, 48), (v2, 48), (v3, 48), (v4, 48), (v5, 48), (v6, 48), (v7, 48)] 0 0) 28,
          ByteSpec 48 (streamT 48 [(v0, 48), (v1, 48), (v2, 48), (v3, 48), (v4, 48), (v5, 48), (v6, 48), (v7, 48)] 0 0) 29,
          ByteSpec 48 (streamT 48 [(v0, 48), (v1, 48), (v2, 48), (v3, 48), (v4, 48), (v5, 48), (v6, 48), (v7, 48)] 0 0) 30,
          ByteSpec 48 (streamT 48 [(v0, 48), (v1, 48), (v2, 48), (v3, 48), (v4, 48), (v5, 48), (v6, 48), (v7, 48)] 0 0) 31,
          ByteSpec 48 (streamT 48 [(v0, 48), (v1, 48), (v2, 48), (v3, 48), (v4, 48), (v5, 48), (v6, 48), (v7, 48)] 0 0) 32,
          ByteSpec 48 (streamT 48 [(v0, 48), (v1, 48), (v2, 48), (v3, 48), (v4, 48), (v5, 48), (v6, 48), (v7, 48)] 0 0) 33,
          ByteSpec 48 (streamT 48 [(v0, 48), (v1, 48), (v2, 48), (v3, 48), (v4, 48), (v5, 48), (v6, 48), (v7, 48)] 0 0) 34,
          ByteSpec 48 (streamT 48 [(v0, 48), (v1, 48), (v2, 48), (v3, 48), (v4, 48), (v5, 48), (v6, 48), (v7, 48)] 0 0) 35,
          ByteSpec 48 (streamT 48 [(v0, 48), (v1, 48), (v2, 48), (v3, 48), (v4, 48), (v5, 48), (v6, 48), (v7, 48)] 0 0) 36,
          ByteSpec 48 (streamT 48 [(v0, 48), (v1, 48), (v2, 48), (v3, 48), (v4, 48), (v5, 48), (v6, 48), (v7, 48)] 0 0) 37,
          ByteSpec 48 (streamT 48 [(v0, 48), (v1, 48), (v2, 48), (v3, 48), (v4, 48), (v5, 48), (v6, 48), (v7, 48)] 0 0) 38,
          ByteSpec 48 (streamT 48 [(v0, 48), (v1, 48), (v2, 48), (v3, 48), (v4, 48), (v5, 48), (v6, 48), (v7, 48)] 0 0) 39,
          ByteSpec 48 (streamT 48 [(v0, 48), (v1, 48), (v2, 48), (v3, 48), (v4, 48), (v5, 48), (v6, 48), (v7, 48)] 0 0) 40,
          ByteSpec 48 (streamT 48 [(v0, 48), (v1, 48), (v2, 48), (v3, 48), (v4, 48), (v5, 48), (v6, 48), (v7, 48)] 0 0) 41,
          ByteSpec 48 (streamT 48 [(v0, 48), (v1, 48), (v2, 48), (v3, 48), (v4, 48), (v5, 48), (v6, 48), (v7, 48)] 0 0) 42,
          ByteSpec 48 (streamT 48 [(v0, 48), (v1, 48), (v2, 48), (v3, 48), (v4, 48), (v5, 48), (v6, 48), (v7, 48)] 0 0) 43,
          ByteSpec 48 (streamT 48 [(v0, 48), (v1, 48), (v2, 48), (v3, 48), (v4, 48), (v5, 48), (v6, 48), (v7, 48)] 0 0) 44,
          ByteSpec 48 (streamT 48 [(v0, 48), (v1, 48), (v2, 48), (v3, 48), (v4, 48), (v5, 48), (v6, 48), (v7, 48)] 0 0) 45,
          ByteSpec 48 (streamT 48 [(v0, 48), (v1, 48), (v2, 48), (v3, 48), (v4, 48), (v5, 48), (v6, 48), (v7, 48)] 0 0) 46,
          ByteSpec 48 (streamT 48 [(v0, 48), (v1, 48), (v2, 48), (v3, 48), (v4, 48), (v5, 48), (v6, 48), (v7, 48)] 0 0) 47 ] :=
    (list_eq_map_range_of_getD _ _ 48 hlen hbytes).trans (by rfl)
  have key2 : pack_bits_48 v0 v1 v2 v3 v4 v5 v6 v7
      = [ u8 (((v0 >>> 40) &&& 0xff)),
          u8 (((v0 >>> 32) &&& 0xff)),
          u8 (((v0 >>> 24) &&& 0xff)),
          u8 (((v0 >>> 16) &&& 0xff)),
          u8 (((v0 >>> 8) &&& 0xff)),
          u8 (((v0) &&& 0xff)),
          u8 (((v1 >>> 40) &&& 0xff)),
          u8 (((v1 >>> 32) &&& 0xff)),
          u8 (((v1 >>> 24) &&& 0xff)),
          u8 (((v1 >>> 16) &&& 0xff)),
          u8 (((v1 >>> 8) &&& 0xff)),
          u8 (((v1) &&& 0xff)),
          u8 (((v2 >>> 40) &&& 0xff)),
          u8 (((v2 >>> 32) &&& 0xff)),
          u8 (((v2 >>> 24) &&& 0xff)),
          u8 (((v2 >>> 16) &&& 0xff)),
          u8 (((v2 >>> 8) &&& 0xff)),
          u8 (((v2) &&& 0xff)),
          u8 (((v3 >>> 40) &&& 0xff)),
          u8 (((v3 >>> 32) &&& 0xff)),
          u8 (((v3 >>> 24) &&& 0xff)),
          u8 (((v3 >>> 16) &&& 0xff)),
          u8 (((v3 >>> 8) &&& 0xff)),
          u8 (((v3) &&& 0xff)),
          u8 (((v4 >>> 40) &&& 0xff)),
          u8 (((v4 >>> 32) &&& 0xff)),
          u8 (((v4 >>> 24) &&& 0xff)),
          u8 (((v4 >>> 16) &&& 0xff)),
          u8 (((v4 >>> 8) &&& 0xff)),
          u8 (((v4) &&& 0xff)),
          u8 (((v5 >>> 40) &&& 0xff)),
          u8 (((v5 >>> 32) &&& 0xff)),
          u8 (((v5 >>> 24) &&& 0xff)),
          u8 (((v5 >>> 16) &&& 0xff)),
          u8 (((v5 >>> 8) &&& 0xff)),
          u8 (((v5) &&& 0xff)),
          u8 (((v6 >>> 40) &&& 0xff)),
          u8 (((v6 >>> 32) &&& 0xff)),
          u8 (((v6 >>> 24) &&& 0xff)),
          u8 (((v6 >>> 16) &&& 0xff)),
          u8 (((v6 >>> 8) &&& 0xff)),
          u8 (((v6) &&& 0xff)),
          u8 (((v7 >>> 40) &&& 0xff)),
          u8 (((v7 >>> 32) &&& 0xff)),
          u8 (((v7 >>> 24) &&& 0xff)),
          u8 (((v7 >>> 16) &&& 0xff)),
          u8 (((v7 >>> 8) &&& 0xff)),
          u8 (((v7) &&& 0xff)) ] := rfl
  obtain ⟨A0, S0, hT0, hA0, hS0⟩ :=
    streamT_decomp 48 [(v0, 48), (v1, 48), (v2, 48), (v3, 48), (v4, 48), (v5, 48), (v6, 48), (v7, 48)] [] [(v1, 48), (v2, 48), (v3, 48), (v4, 48), (v5, 48), (v6, 48), (v7, 48)] v0 48 0 rfl rfl hvs
      (by norm_num [List.map_cons, List.map_nil, List.sum_cons, List.sum_nil])
  obtain ⟨A1, S1, hT1, hA1, hS1⟩ :=
    streamT_decomp 48 [(v0, 48), (v1, 48), (v2, 48), (v3, 48), (v4, 48), (v5, 48), (v6, 48), (v7, 48)] [(v0, 48)] [(v2, 48), (v3, 48), (v4, 48), (v5, 48), (v6, 48), (v7, 48)] v1 48 48 rfl rfl hvs
      (by norm_num [List.map_cons, List.map_nil, List.sum_cons, List.sum_nil])
  obtain ⟨A2, S2, hT2, hA2, hS2⟩ :=
    streamT_decomp 48 [(v0, 48), (v1, 48), (v2, 48), (v3, 48), (v4, 48), (v5, 48), (v6, 48), (v7, 48)] [(v0, 48), (v1, 48)] [(v3, 48), (v4, 48), (v5, 48), (v6, 48), (v7, 48)] v2 48 96 rfl rfl hvs
      (by norm_num [List.map_cons, List.map_nil, List.sum_cons, List.sum_nil])
  obtain ⟨A3, S3, hT3, hA3, hS3⟩ :=
    streamT_decomp 48 [(v0, 48), (v1, 48), (v2, 48), (v3, 48), (v4, 48), (v5, 48), (v6, 48), (v7, 48)] [(v0, 48), (v1, 48), (v2, 48)] [(v4, 48), (v5, 48), (v6, 48), (v7, 48)] v3 48 144 rfl rfl hvs
      (by norm_num [List.map_cons, List.map_nil, List.sum_cons, List.sum_nil])
  obtain ⟨A4, S4, hT4, hA4, hS4⟩ :=
    streamT_decomp 48 [(v0, 48), (v1, 48), (v2, 48), (v3, 48), (v4, 48), (v5, 48), (v6, 48), (v7, 48)] [(v0, 48), (v1, 48), (v2, 48), (v3, 48)] [(v5, 48), (v6, 48), (v7, 48)] v4 48 192 rfl rfl hvs
      (by norm_num [List.map_cons, List.map_nil, List.sum_cons, List.sum_nil])
  obtain ⟨A5, S5, hT5, hA5, hS5⟩ :=
    streamT_decomp 48 [(v0, 48), (v1, 48), (v2, 48), (v3, 48), (v4, 48), (v5, 48), (v6, 48), (v7, 48)] [(v0, 48), (v1, 48), (v2, 48), (v3, 48), (v4, 48)] [(v6, 48), (v7, 48)] v5 48 240 rfl rfl hvs
      (by norm_num [List.map_cons, List.map_nil, List.sum_cons, List.sum_nil])
  obtain ⟨A6, S6, hT6, hA6, hS6⟩ :=
    streamT_decomp 48 [(v0, 48), (v1, 48), (v2, 48), (v3, 48), (v4, 48), (v5, 48), (v6, 48), (v7, 48)] [(v0, 48), (v1, 48), (v2, 48), (v3, 48), (v4, 48), (v5, 48)] [(v7, 48)] v6 48 288 rfl rfl hvs
      (by norm_num [List.map_cons, List.map_nil, List.sum_cons, List.sum_nil])
  obtain ⟨A7, S7, hT7, hA7, hS7⟩ :=
    streamT_decomp 48 [(v0, 48), (v1, 48), (v2, 48), (v3, 48), (v4, 48), (v5, 48), (v6, 48), (v7, 48)] [(v0, 48), (v1, 48), (v2, 48), (v3, 48), (v4, 48), (v5, 48), (v6, 48)] [] v7 48 336 rfl rfl hvs
      (by norm_num [List.map_cons, List.map_nil, List.sum_cons, List.sum_nil])
  rw [key, key2]
  simp only [List.cons.injEq]
  refine ⟨?_, ?_, ?_, ?_, ?_, ?_, ?_, ?_, ?_, ?_, ?_, ?_, ?_, ?_, ?_, ?_, ?_, ?_, ?_, ?_, ?_, ?_, ?_, ?_, ?_, ?_, ?_, ?_, ?_, ?_, ?_, ?_, ?_, ?_, ?_, ?_, ?_, ?_, ?_, ?_, ?_, ?_, ?_, ?_, ?_, ?_, ?_, ?_, trivial⟩
  · rw [hT0]
    exact byteSpec_mid 48 A0 v0 S0 (8 * 48 - 0 - 48) 48 0 40 hA0 hS0
      (by norm_num) (by norm_num)
  · rw [hT0]
    exact byteSpec_mid 48 A0 v0 S0 (8 * 48 - 0 - 48) 48 1 32 hA0 hS0
      (by norm_num) (by norm_num)
  · rw [hT0]
    exact byteSpec_mid 48 A0 v0 S0 (8 * 48 - 0 - 48) 48 2 24 hA0 hS0
      (by norm_num) (by norm_num)
  · rw [hT0]
    exact byteSpec_mid 48 A0 v0 S0 (8 * 48 - 0 - 48) 48 3 16 hA0 hS0
      (by norm_num) (by norm_num)
  · rw [hT0]
    exact byteSpec_mid 48 A0 v0 S0 (8 * 48 - 0 - 48) 48 4 8 hA0 hS0
      (by norm_num) (by norm_num)
  · rw [hT0]
    exact byteSpec_mid0 48 A0 v0 S0 (8 * 48 - 0 - 48) 48 5 hA0 hS0
      (by norm_num) (by norm_num)
  · rw [hT1]
    exact byteSpec_mid 48 A1 v1 S1 (8 * 48 - 48 - 48) 48 6 40 hA1 hS1
      (by norm_num) (by norm_num)
  · rw [hT1]
    exact byteSpec_mid 48 A1 v1 S1 (8 * 48 - 48 - 48) 48 7 32 hA1 hS1
      (by norm_num) (by norm_num)
  · rw [hT1]
    exact byteSpec_mid 48 A1 v1 S1 (8 * 48 - 48 - 48) 48 8 24 hA1 hS1
      (by norm_num) (by norm_num)
  · rw [hT1]
    exact byteSpec_mid 48 A1 v1 S1 (8 * 48 - 48 - 48) 48 9 16 hA1 hS1
      (by norm_num) (by norm_num)
  · rw [hT1]
    exact byteSpec_mid 48 A1 v1 S1 (8 * 48 - 48 - 48) 48 10 8 hA1 hS1
      (by norm_num) (by norm_num)
  · rw [hT1]
    exact byteSpec_mid0 48 A1 v1 S1 (8 * 48 - 48 - 48) 48 11 hA1 hS1
      (by norm_num) (by norm_num)
  · rw [hT2]
    exact byteSpec_mid 48 A2 v2 S2 (8 * 48 - 96 - 48) 48 12 40 hA2 hS2
      (by norm_num) (by norm_num)
  · rw [hT2]
    exact byteSpec_mid 48 A2 v2 S2 (8 * 48 - 96 - 48) 48 13 32 hA2 hS2
      (by norm_num) (by norm_num)
  · rw [hT2]
    exact byteSpec_mid 48 A2 v2 S2 (8 * 48 - 96 - 48) 48 14 24 hA2 hS2
      (by norm_num) (by norm_num)
  · rw [hT2]
    exact byteSpec_mid 48 A2 v2 S2 (8 * 48 - 96 - 48) 48 15 16 hA2 hS2
      (by norm_num) (by norm_num)
  · rw [hT2]
    exact byteSpec_mid 48 A2 v2 S2 (8 * 48 - 96 - 48) 48 16 8 hA2 hS2
      (by norm_num) (by norm_num)
  · rw [hT2]
    exact byteSpec_mid0 48 A2 v2 S2 (8 * 48 - 96 - 48) 48 17 hA2 hS2
      (by norm_num) (by norm_num)
  · rw [hT3]
    exact byteSpec_mid 48 A3 v3 S3 (8 * 48 - 144 - 48) 48 18 40 hA3 hS3
      (by norm_num) (by norm_num)
  · rw [hT3]
    exact byteSpec_mid 48 A3 v3 S3 (8 * 48 - 144 - 48) 48 19 32 hA3 hS3
      (by norm_num) (by norm_num)
  · rw [hT3]
    exact byteSpec_mid 48 A3 v3 S3 (8 * 48 - 144 - 48) 48 20 24 hA3 hS3
      (by norm_num) (by norm_num)
  · rw [hT3]
    exact byteSpec_mid 48 A3 v3 S3 (8 * 48 - 144 - 48) 48 21 16 hA3 hS3
      (by norm_num) (by norm_num)
  · rw [hT3]
    exact byteSpec_mid 48 A3 v3 S3 (8 * 48 - 144 - 48) 48 22 8 hA3 hS3
      (by norm_num) (by norm_num)
  · rw [hT3]
    exact byteSpec_mid0 48 A3 v3 S3 (8 * 48 - 144 - 48) 48 23 hA3 hS3
      (by norm_num) (by norm_num)
  · rw [hT4]
    exact byteSpec_mid 48 A4 v4 S4 (8 * 48 - 192 - 48) 48 24 40 hA4 hS4
      (by norm_num) (by norm_num)
  · rw [hT4]
    exact byteSpec_mid 48 A4 v4 S4 (8 * 48 - 192 - 48) 48 25 32 hA4 hS4
      (by norm_num) (by norm_num)
  · rw [hT4]
    exact byteSpec_mid 48 A4 v4 S4 (8 * 48 - 192 - 48) 48 26 24 hA4 hS4
      (by norm_num) (by norm_num)
  · rw [hT4]
    exact byteSpec_mid 48 A4 v4 S4 (8 * 48 - 192 - 48) 48 27 16 hA4 hS4
      (by norm_num) (by norm_num)
  · rw [hT4]
    exact byteSpec_mid 48 A4 v4 S4 (8 * 48 - 192 - 48) 48 28 8 hA4 hS4
      (by norm_num) (by norm_num)
  · rw [hT4]
    exact byteSpec_mid0 48 A4 v4 S4 (8 * 48 - 192 - 48) 48 29 hA4 hS4
      (by norm_num) (by norm_num)
  · rw [hT5]
    exact byteSpec_mid 48 A5 v5 S5 (8 * 48 - 240 - 48) 48 30 40 hA5 hS5
      (by norm_num) (by norm_num)
  · rw [hT5]
    exact byteSpec_mid 48 A5 v5 S5 (8 * 48 - 240 - 48) 48 31 32 hA5 hS5
      (by norm_num) (by norm_num)
  · rw [hT5]
    exact byteSpec_mid 48 A5 v5 S5 (8 * 48 - 240 - 48) 48 32 24 hA5 hS5
      (by norm_num) (by norm_num)
  · rw [hT5]
    exact byteSpec_mid 48 A5 v5 S5 (8 * 48 - 240 - 48) 48 33 16 hA5 hS5
      (by norm_num) (by norm_num)
  · rw [hT5]
    exact byteSpec_mid 48 A5 v5 S5 (8 * 48 - 240 - 48) 48 34 8 hA5 hS5
      (by norm_num) (by norm_num)
  · rw [hT5]
    exact byteSpec_mid0 48 A5 v5 S5 (8 * 48 - 240 - 48) 48 35 hA5 hS5
      (by norm_num) (by norm_num)
  · rw [hT6]
    exact byteSpec_mid 48 A6 v6 S6 (8 * 48 - 288 - 48) 48 36 40 hA6 hS6
      (by norm_num) (by norm_num)
  · rw [hT6]
    exact byteSpec_mid 48 A6 v6 S6 (8 * 48 - 288 - 48) 48 37 32 hA6 hS6
      (by norm_num) (by norm_num)
  · rw [hT6]
    exact byteSpec_mid 48 A6 v6 S6 (8 * 48 - 288 - 48) 48 38 24 hA6 hS6
      (by norm_num) (by norm_num)
  · rw [hT6]
    exact byteSpec_mid 48 A6 v6 S6 (8 * 48 - 288 - 48) 48 39 16 hA6 hS6
      (by norm_num) (by norm_num)
  · rw [hT6]
    exact byteSpec_mid 48 A6 v6 S6 (8 * 48 - 288 - 48) 48 40 8 hA6 hS6
      (by norm_num) (by norm_num)
  · rw [hT6]
    exact byteSpec_mid0 48 A6 v6 S6 (8 * 48 - 288 - 48) 48 41 hA6 hS6
      (by norm_num) (by norm_num)
  · rw [hT7]
    exact byteSpec_mid 48 A7 v7 S7 (8 * 48 - 336 - 48) 48 42 40 hA7 hS7
      (by norm_num) (by norm_num)
  · rw [hT7]
    exact byteSpec_mid 48 A7 v7 S7 (8 * 48 - 336 - 48) 48 43 32 hA7 hS7
      (by norm_num) (by norm_num)
  · rw [hT7]
    exact byteSpec_mid 48 A7 v7 S7 (8 * 48 - 336 - 48) 48 44 24 hA7 hS7
      (by norm_num) (by norm_num)
  · rw [hT7]
    exact byteSpec_mid 48 A7 v7 S7 (8 * 48 - 336 - 48) 48 45 16 hA7 hS7
      (by norm_num) (by norm_num)
  · rw [hT7]
    exact byteSpec_mid 48 A7 v7 S7 (8 * 48 - 336 - 48) 48 46 8 hA7 hS7
      (by norm_num) (by norm_num)
  · rw [hT7]
    exact byteSpec_mid0 48 A7 v7 S7 (8 * 48 - 336 - 48) 48 47 hA7 hS7
      (by norm_num) (by norm_num)

set_option maxRecDepth 16000 in
set_option maxHeartbeats 1000000 in
theorem c5_pack_eq_49 (v0 v1 v2 v3 v4 v5 v6 v7 : Nat) (hv0 : v0 < 2 ^ 49) (hv1 : v1 < 2 ^ 49) (hv2 : v2 < 2 ^ 49) (hv3 : v3 < 2 ^ 49) (hv4 : v4 < 2 ^ 49) (hv5 : v5 < 2 ^ 49) (hv6 : v6 < 2 ^ 49) (hv7 : v7 < 2 ^ 49) :
    (packSeq (BitPacker.new (List.replicate 49 0)) [(v0, 49), (v1, 49), (v2, 49), (v3, 49), (v4, 49), (v5, 49), (v6, 49), (v7, 49)]).bytes
      = pack_bits_49 v0 v1 v2 v3 v4 v5 v6 v7 := by
  have hvs : ∀ p ∈ ([(v0, 49), (v1, 49), (v2, 49), (v3, 49), (v4, 49), (v5, 49), (v6, 49), (v7, 49)] : List (Nat × Nat)), p.1 < 2 ^ p.2 := by
    intro p hp
    simp only [List.mem_cons, List.not_mem_nil, or_false] at hp
    rcases hp with rfl | rfl | rfl | rfl | rfl | rfl | rfl | rfl
    exacts [hv0, hv1, hv2, hv3, hv4, hv5, hv6, hv7]
  obtain ⟨-, -, -, ⟨hlen, hbytes⟩, -, -⟩ :=
    packSeq_inv 49 [(v0, 49), (v1, 49), (v2, 49), (v3, 49), (v4, 49), (v5, 49), (v6, 49), (v7, 49)] 0 0 _ hvs
      (by norm_num [List.map_cons, List.map_nil, List.sum_cons, List.sum_nil]) (packInv_init 49)
  have key : (packSeq (BitPacker.new (List.replicate 49 0)) [(v0, 49), (v1, 49), (v2, 49), (v3, 49), (v4, 49), (v5, 49), (v6, 49), (v7, 49)]).bytes
      = [ ByteSpec 49 (streamT 49 [(v0, 49), (v1, 49), (v2, 49), (v3, 49), (v4, 49), (v5, 49), (v6, 49), (v7, 49)] 0 0) 0,
          ByteSpec 49 (streamT 49 [(v0, 49), (v1, 49), (v2, 49), (v3, 49), (v4, 49), (v5, 49), (v6, 49), (v7, 49)] 0 0) 1,
          ByteSpec 49 (streamT 49 [(v0, 49), (v1, 49), (v2, 49), (v3, 49), (v4, 49), (v5, 49), (v6, 49), (v7, 49)] 0 0) 2,
          ByteSpec 49 (streamT 49 [(v0, 49), (v1, 49), (v2, 49), (v3, 49), (v4, 49), (v5, 49), (v6, 49), (v7, 49)] 0 0) 3,
          ByteSpec 49 (streamT 49 [(v0, 49), (v1, 49), (v2, 49), (v3, 49), (v4, 49), (v5, 49), (v6, 49), (v7, 49)] 0 0) 4,
          ByteSpec 49 (streamT 49 [(v0, 49), (v1, 49), (v2, 49), (v3, 49), (v4, 49), (v5, 49), (v6, 49), (v7, 49)] 0 0) 5,
          ByteSpec 49 (streamT 49 [(v0, 49), (v1, 49), (v2, 49), (v3, 49), (v4, 49), (v5, 49), (v6, 49), (v7, 49)] 0 0) 6,
          ByteSpec 49 (streamT 49 [(v0, 49), (v1, 49), (v2, 49), (v3, 49), (v4, 49), (v5, 49), (v6, 49), (v7, 49)] 0 0) 7,
          ByteSpec 49 (streamT 49 [(v0, 49), (v1, 49), (v2, 49), (v3, 49), (v4, 49), (v5, 49), (v6, 49), (v7, 49)] 0 0) 8,
          ByteSpec 49 (streamT 49 [(v0, 49), (v1, 49), (v2, 49), (v3, 49), (v4, 49), (v5, 49), (v6, 49), (v7, 49)] 0 0) 9,
          ByteSpec 49 (streamT 49 [(v0, 49), (v1, 49), (v2, 49), (v3, 49), (v4, 49), (v5, 49), (v6, 49), (v7, 49)] 0 0) 10,
          ByteSpec 49 (streamT 49 [(v0, 49), (v1, 49), (v2, 49), (v3, 49), (v4, 49), (v5, 49), (v6, 49), (v7, 49)] 0 0) 11,
          ByteSpec 49 (streamT 49 [(v0, 49), (v1, 49), (v2, 49), (v3, 49), (v4, 49), (v5, 49), (v6, 49), (v7, 49)] 0 0) 12,
          ByteSpec 49 (streamT 49 [(v0, 49), (v1, 49), (v2, 49), (v3, 49), (v4, 49), (v5, 49), (v6, 49), (v7, 49)] 0 0) 13,
          ByteSpec 49 (streamT 49 [(v0, 49), (v1, 49), (v2, 49), (v3, 49), (v4, 49), (v5, 49), (v6, 49), (v7, 49)] 0 0) 14,
          ByteSpec 49 (streamT 49 [(v0, 49), (v1, 49), (v2, 49), (v3, 49), (v4, 49), (v5, 49), (v6, 49), (v7, 49)] 0 0) 15,
          ByteSpec 49 (streamT 49 [(v0, 49), (v1, 49), (v2, 49), (v3, 49), (v4, 49), (v5, 49), (v6, 49), (v7, 49)] 0 0) 16,
          ByteSpec 49 (streamT 49 [(v0, 49), (v1, 49), (v2, 49), (v3, 49), (v4, 49), (v5, 49), (v6, 49), (v7, 49)] 0 0) 17,
          ByteSpec 49 (streamT 49 [(v0, 49), (v1, 49), (v2, 49), (v3, 49), (v4, 49), (v5, 49), (v6, 49), (v7, 49)] 0 0) 18,
          ByteSpec 49 (streamT 49 [(v0, 49), (v1, 49), (v2, 49), (v3, 49), (v4, 49), (v5, 49), (v6, 49), (v7, 49)] 0 0) 19,
          ByteSpec 49 (streamT 49 [(v0, 49), (v1, 49), (v2, 49), (v3, 49), (v4, 49), (v5, 49), (v6, 49), (v7, 49)] 0 0) 20,
          ByteSpec 49 (streamT 49 [(v0, 49), (v1, 49), (v2, 49), (v3, 49), (v4, 49), (v5, 49), (v6, 49), (v7, 49)] 0 0) 21,
          ByteSpec 49 (streamT 49 [(v0, 49), (v1, 49), (v2, 49), (v3, 49), (v4, 49), (v5, 49), (v6, 49), (v7, 49)] 0 0) 22,
          ByteSpec 49 (streamT 49 [(v0, 49), (v1, 49), (v2, 49), (v3, 49), (v4, 49), (v5, 49), (v6, 49), (v7, 49)] 0 0) 23,
          ByteSpec 49 (streamT 49 [(v0, 49), (v1, 49), (v2, 49), (v3, 49), (v4, 49), (v5, 49), (v6, 49), (v7, 49)] 0 0) 24,
          ByteSpec 49 (streamT 49 [(v0, 49), (v1, 49), (v2, 49), (v3, 49), (v4, 49), (v5, 49), (v6, 49), (v7, 49)] 0 0) 25,
          ByteSpec 49 (streamT 49 [(v0, 49), (v1, 49), (v2, 49), (v3, 49), (v4, 49), (v5, 49), (v6, 49), (v7, 49)] 0 0) 26,
          ByteSpec 49 (streamT 49 [(v0, 49), (v1, 49), (v2, 49), (v3, 49), (v4, 49), (v5, 49), (v6, 49), (v7, 49)] 0 0) 27,
          ByteSpec 49 (streamT 49 [(v0, 49), (v1, 49), (v2, 49), (v3, 49), (v4, 49), (v5, 49), (v6, 49), (v7, 49)] 0 0) 28,
          ByteSpec 49 (streamT 49 [(v0, 49), (v1, 49), (v2, 49), (v3, 49), (v4, 49), (v5, 49), (v6, 49), (v7, 49)] 0 0) 29,
          ByteSpec 49 (streamT 49 [(v0, 49), (v1, 49), (v2, 49), (v3, 49), (v4, 49), (v5, 49), (v6, 49), (v7, 49)] 0 0) 30,
          ByteSpec 49 (streamT 49 [(v0, 49), (v1, 49), (v2, 49), (v3, 49), (v4, 49), (v5, 49), (v6, 49), (v7, 49)] 0 0) 31,
          ByteSpec 49 (streamT 49 [(v0, 49), (v1, 49), (v2, 49), (v3, 49), (v4, 49), (v5, 49), (v6, 49), (v7, 49)] 0 0) 32,
          ByteSpec 49 (streamT 49 [(v0, 49), (v1, 49), (v2, 49), (v3, 49), (v4, 49), (v5, 49), (v6, 49), (v7, 49)] 0 0) 33,
          ByteSpec 49 (streamT 49 [(v0, 49), (v1, 49), (v2, 49), (v3, 49), (v4, 49), (v5, 49), (v6, 49), (v7, 49)] 0 0) 34,
          ByteSpec 49 (streamT 49 [(v0, 49), (v1, 49), (v2, 49), (v3, 49), (v4, 49), (v5, 49), (v6, 49), (v7, 49)] 0 0) 35,
          ByteSpec 49 (streamT 49 [(v0, 49), (v1, 49), (v2, 49), (v3, 49), (v4, 49), (v5, 49), (v6, 49), (v7, 49)] 0 0) 36,
          ByteSpec 49 (streamT 49 [(v0, 49), (v1, 49), (v2, 49), (v3, 49), (v4, 49), (v5, 49), (v6, 49), (v7, 49)] 0 0) 37,
          ByteSpec 49 (streamT 49 [(v0, 49), (v1, 49), (v2, 49), (v3, 49), (v4, 49), (v5, 49), (v6, 49), (v7, 49)] 0 0) 38,
          ByteSpec 49 (streamT 49 [(v0, 49), (v1, 49), (v2, 49), (v3, 49), (v4, 49), (v5, 49), (v6, 49), (v7, 49)] 0 0) 39,
          ByteSpec 49 (streamT 49 [(v0, 49), (v1, 49), (v2, 49), (v3, 49), (v4, 49), (v5, 49), (v6, 49), (v7, 49)] 0 0) 40,
          ByteSpec 49 (streamT 49 [(v0, 49), (v1, 49), (v2, 49), (v3, 49), (v4, 49), (v5, 49), (v6, 49), (v7, 49)] 0 0) 41,
          ByteSpec 49 (streamT 49 [(v0, 49), (v1, 49), (v2, 49), (v3, 49), (v4, 49), (v5, 49), (v6, 49), (v7, 49)] 0 0) 42,
          ByteSpec 49 (streamT 49 [(v0, 49), (v1, 49), (v2, 49), (v3, 49), (v4, 49), (v5, 49), (v6, 49), (v7, 49)] 0 0) 43,
          ByteSpec 49 (streamT 49 [(v0, 49), (v1, 49), (v2, 49), (v3, 49), (v4, 49), (v5, 49), (v6, 49), (v7, 49)] 0 0) 44,
          ByteSpec 49 (streamT 49 [(v0, 49), (v1, 49), (v2, 49), (v3, 49), (v4, 49), (v5, 49), (v6, 49), (v7, 49)] 0 0) 45,
          ByteSpec 49 (streamT 49 [(v0, 49), (v1, 49), (v2, 49), (v3, 49), (v4, 49), (v5, 49), (v6, 49), (v7, 49)] 0 0) 46,
          ByteSpec 49 (streamT 49 [(v0, 49), (v1, 49), (v2, 49), (v3, 49), (v4, 49), (v5, 49), (v6, 49), (v7, 49)] 0 0) 47,
          ByteSpec 49 (streamT 49 [(v0, 49), (v1, 49), (v2, 49), (v3, 49), (v4, 49), (v5, 49), (v6, 49), (v7, 49)] 0 0) 48 ] :=
    (list_eq_map_range_of_getD _ _ 49 hlen hbytes).trans (by rfl)
  have key2 : pack_bits_49 v0 v1 v2 v3 v4 v5 v6 v7
      = [ u8 (((v0 >>> 41) &&& 0xff)),
          u8 (((v0 >>> 33) &&& 0xff)),
          u8 (((v0 >>> 25) &&& 0xff)),
          u8 (((v0 >>> 17) &&& 0xff)),
          u8 (((v0 >>> 9) &&& 0xff)),
          u8 (((v0 >>> 1) &&& 0xff)),
          u8 (((((v0) &&& 0x1) <<< 7) ||| ((v1 >>> 42) &&& 0x7f))),
          u8 (((v1 >>> 34) &&& 0xff)),
          u8 (((v1 >>> 26) &&& 0xff)),
          u8 (((v1 >>> 18) &&& 0xff)),
          u8 (((v1 >>> 10) &&& 0xff)),
          u8 (((v1 >>> 2) &&& 0xff)),
          u8 (((((v1) &&& 0x3) <<< 6) ||| ((v2 >>> 43) &&& 0x3f))),
          u8 (((v2 >>> 35) &&& 0xff)),
          u8 (((v2 >>> 27) &&& 0xff)),
          u8 (((v2 >>> 19) &&& 0xff)),
          u8 (((v2 >>> 11) &&& 0xff)),
          u8 (((v2 >>> 3) &&& 0xff)),
          u8 (((((v2) &&& 0x7) <<< 5) ||| ((v3 >>> 44) &&& 0x1f))),
          u8 (((v3 >>> 36) &&& 0xff)),
          u8 (((v3 >>> 28) &&& 0xff)),
          u8 (((v3 >>> 20) &&& 0xff)),
          u8 (((v3 >>> 12) &&& 0xff)),
          u8 (((v3 >>> 4) &&& 0xff)),
          u8 (((((v3) &&& 0xf) <<< 4) ||| ((v4 >>> 45) &&& 0xf))),
          u8 (((v4 >>> 37) &&& 0xff)),
          u8 (((v4 >>> 29) &&& 0xff)),
          u8 (((v4 >>> 21) &&& 0xff)),
          u8 (((v4 >>> 13) &&& 0xff)),
          u8 (((v4 >>> 5) &&& 0xff)),
          u8 (((((v4) &&& 0x1f) <<< 3) ||| ((v5 >>> 46) &&& 0x7))),
          u8 (((v5 >>> 38) &&& 0xff)),
          u8 (((v5 >>> 30) &&& 0xff)),
          u8 (((v5 >>> 22) &&& 0xff)),
          u8 (((v5 >>> 14) &&& 0xff)),
          u8 (((v5 >>> 6) &&& 0xff)),
          u8 (((((v5) &&& 0x3f) <<< 2) ||| ((v6 >>> 47) &&& 0x3))),
          u8 (((v6 >>> 39) &&& 0xff)),
          u8 (((v6 >>> 31) &&& 0xff)),
          u8 (((v6 >>> 23) &&& 0xff)),
          u8 (((v6 >>> 15) &&& 0xff)),
          u8 (((v6 >>> 7) &&& 0xff)),
          u8 (((((v6) &&& 0x7f) <<< 1) ||| ((v7 >>> 48) &&& 0x1))),
          u8 (((v7 >>> 40) &&& 0xff)),
          u8 (((v7 >>> 32) &&& 0xff)),
          u8 (((v7 >>> 24) &&& 0xff)),
          u8 (((v7 >>> 16) &&& 0xff)),
          u8 (((v7 >>> 8) &&& 0xff)),
          u8 (((v7) &&& 0xff)) ] := rfl
  obtain ⟨A0, S0, hT0, hA0, hS0⟩ :=
    streamT_decomp 49 [(v0, 49), (v1, 49), (v2, 49), (v3, 49), (v4, 49), (v5, 49), (v6, 49), (v7, 49)] [] [(v1, 49), (v2, 49), (v3, 49), (v4, 49), (v5, 49), (v6, 49), (v7, 49)] v0 49 0 rfl rfl hvs
      (by norm_num [List.map_cons, List.map_nil, List.sum_cons, List.sum_nil])
  obtain ⟨A1, S1, hT1, hA1, hS1⟩ :=
    streamT_decomp 49 [(v0, 49), (v1, 49), (v2, 49), (v3, 49), (v4, 49), (v5, 49), (v6, 49), (v7, 49)] [(v0, 49)] [(v2, 49), (v3, 49), (v4, 49), (v5, 49), (v6, 49), (v7, 49)] v1 49 49 rfl rfl hvs
      (by norm_num [List.map_cons, List.map_nil, List.sum_cons, List.sum_nil])
  obtain ⟨A2, S2, hT2, hA2, hS2⟩ :=
    streamT_decomp 49 [(v0, 49), (v1, 49), (v2, 49), (v3, 49), (v4, 49), (v5, 49), (v6, 49), (v7, 49)] [(v0, 49), (v1, 49)] [(v3, 49), (v4, 49), (v5, 49), (v6, 49), (v7, 49)] v2 49 98 rfl rfl hvs
      (by norm_num [List.map_cons, List.map_nil, List.sum_cons, List.sum_nil])
  obtain ⟨A3, S3, hT3, hA3, hS3⟩ :=
    streamT_decomp 49 [(v0, 49), (v1, 49), (v2, 49), (v3, 49), (v4, 49), (v5, 49), (v6, 49), (v7, 49)] [(v0, 49), (v1, 49), (v2, 49)] [(v4, 49), (v5, 49), (v6, 49), (v7, 49)] v3 49 147 rfl rfl hvs
      (by norm_num [List.map_cons, List.map_nil, List.sum_cons, List.sum_nil])
  obtain ⟨A4, S4, hT4, hA4, hS4⟩ :=
    streamT_decomp 49 [(v0, 49), (v1, 49), (v2, 49), (v3, 49), (v4, 49), (v5, 49), (v6, 49), (v7, 49)] [(v0, 49), (v1, 49), (v2, 49), (v3, 49)] [(v5, 49), (v6, 49), (v7, 49)] v4 49 196 rfl rfl hvs
      (by norm_num [List.map_cons, List.map_nil, List.sum_cons, List.sum_nil])
  obtain ⟨A5, S5, hT5, hA5, hS5⟩ :=
    streamT_decomp 49 [(v0, 49), (v1, 49), (v2, 49), (v3, 49), (v4, 49), (v5, 49), (v6, 49), (v7, 49)] [(v0, 49), (v1, 49), (v2, 49), (v3, 49), (v4, 49)] [(v6, 49), (v7, 49)] v5 49 245 rfl rfl hvs
      (by norm_num [List.map_cons, List.map_nil, List.sum_cons, List.sum_nil])
  obtain ⟨A6, S6, hT6, hA6, hS6⟩ :=
    streamT_decomp 49 [(v0, 49), (v1, 49), (v2, 49), (v3, 49), (v4, 49), (v5, 49), (v6, 49), (v7, 49)] [(v0, 49), (v1, 49), (v2, 49), (v3, 49), (v4, 49), (v5, 49)] [(v7, 49)] v6 49 294 rfl rfl hvs
      (by norm_num [List.map_cons, List.map_nil, List.sum_cons, List.sum_nil])
  obtain ⟨A7, S7, hT7, hA7, hS7⟩ :=
    streamT_decomp 49 [(v0, 49), (v1, 49), (v2, 49), (v3, 49), (v4, 49), (v5, 49), (v6, 49), (v7, 49)] [(v0, 49), (v1, 49), (v2, 49), (v3, 49), (v4, 49), (v5, 49), (v6, 49)] [] v7 49 343 rfl rfl hvs
      (by norm_num [List.map_cons, List.map_nil, List.sum_cons, List.sum_nil])
  obtain ⟨B0, R0, hU0, hB0, hR0⟩ :=
    streamT_decomp2 49 [(v0, 49), (v1, 49), (v2, 49), (v3, 49), (v4, 49), (v5, 49), (v6, 49), (v7, 49)] [] [(v2, 49), (v3, 49), (v4, 49), (v5, 49), (v6, 49), (v7, 49)] v0 v1 49 49 0 rfl rfl hvs
      (by norm_num [List.map_cons, List.map_nil, List.sum_cons, List.sum_nil])
  obtain ⟨B1, R1, hU1, hB1, hR1⟩ :=
    streamT_decomp2 49 [(v0, 49), (v1, 49), (v2, 49), (v3, 49), (v4, 49), (v5, 49), (v6, 49), (v7, 49)] [(v0, 49)] [(v3, 49), (v4, 49), (v5, 49), (v6, 49), (v7, 49)] v1 v2 49 49 49 rfl rfl hvs
      (by norm_num [List.map_cons, List.map_nil, List.sum_cons, List.sum_nil])
  obtain ⟨B2, R2, hU2, hB2, hR2⟩ :=
    streamT_decomp2 49 [(v0, 49), (v1, 49), (v2, 49), (v3, 49), (v4, 49), (v5, 49), (v6, 49), (v7, 49)] [(v0, 49), (v1, 49)] [(v4, 49), (v5, 49), (v6, 49), (v7, 49)] v2 v3 49 49 98 rfl rfl hvs
      (by norm_num [List.map_cons, List.map_nil, List.sum_cons, List.sum_nil])
  obtain ⟨B3, R3, hU3, hB3, hR3⟩ :=
    streamT_decomp2 49 [(v0, 49), (v1, 49), (v2, 49), (v3, 49), (v4, 49), (v5, 49), (v6, 49), (v7, 49)] [(v0, 49), (v1, 49), (v2, 49)] [(v5, 49), (v6, 49), (v7, 49)] v3 v4 49 49 147 rfl rfl hvs
      (by norm_num [List.map_cons, List.map_nil, List.sum_cons, List.sum_nil])
  obtain ⟨B4, R4, hU4, hB4, hR4⟩ :=
    streamT_decomp2 49 [(v0, 49), (v1, 49), (v2, 49), (v3, 49), (v4, 49), (v5, 49), (v6, 49), (v7, 49)] [(v0, 49), (v1, 49), (v2, 49), (v3, 49)] [(v6, 49), (v7, 49)] v4 v5 49 49 196 rfl rfl hvs
      (by norm_num [List.map_cons, List.map_nil, List.sum_cons, List.sum_nil])
  obtain ⟨B5, R5, hU5, hB5, hR5⟩ :=
    streamT_decomp2 49 [(v0, 49), (v1, 49), (v2, 49), (v3, 49), (v4, 49), (v5, 49), (v6, 49), (v7, 49)] [(v0, 49), (v1, 49), (v2, 49), (v3, 49), (v4, 49)] [(v7, 49)] v5 v6 49 49 245 rfl rfl hvs
      (by norm_num [List.map_cons, List.map_nil, List.sum_cons, List.sum_nil])
  obtain ⟨B6, R6, hU6, hB6, hR6⟩ :=
    streamT_decomp2 49 [(v0, 49), (v1, 49), (v2, 49), (v3, 49), (v4, 49), (v5, 49), (v6, 49), (v7, 49)] [(v0, 49), (v1, 49), (v2, 49), (v3, 49), (v4, 49), (v5, 49)] [] v6 v7 49 49 294 rfl rfl hvs
      (by norm_num [List.map_cons, List.map_nil, List.sum_cons, List.sum_nil])
  rw [key, key2]
  simp only [List.cons.injEq]
  refine ⟨?_, ?_, ?_, ?_, ?_, ?_, ?_, ?_, ?_, ?_, ?_, ?_, ?_, ?_, ?_, ?_, ?_, ?_, ?_, ?_, ?_, ?_, ?_, ?_, ?_, ?_, ?_, ?_, ?_, ?_, ?_, ?_, ?_, ?_, ?_, ?_, ?_, ?_, ?_, ?_, ?_, ?_, ?_, ?_, ?_, ?_, ?_, ?_, ?_, trivial⟩
  · rw [hT0]
    exact byteSpec_mid 49 A0 v0 S0 (8 * 49 - 0 - 49) 49 0 41 hA0 hS0
      (by norm_num) (by norm_num)
  · rw [hT0]
    exact byteSpec_mid 49 A0 v0 S0 (8 * 49 - 0 - 49) 49 1 33 hA0 hS0
      (by norm_num) (by norm_num)
  · rw [hT0]
    exact byteSpec_mid 49 A0 v0 S0 (8 * 49 - 0 - 49) 49 2 25 hA0 hS0
      (by norm_num) (by norm_num)
  · rw [hT0]
    exact byteSpec_mid 49 A0 v0 S0 (8 * 49 - 0 - 49) 49 3 17 hA0 hS0
      (by norm_num) (by norm_num)
  · rw [hT0]
    exact byteSpec_mid 49 A0 v0 S0 (8 * 49 - 0 - 49) 49 4 9 hA0 hS0
      (by norm_num) (by norm_num)
  · rw [hT0]
    exact byteSpec_mid 49 A0 v0 S0 (8 * 49 - 0 - 49) 49 5 1 hA0 hS0
      (by norm_num) (by norm_num)
  · rw [hU0]
    exact byteSpec_bnd 49 B0 v0 v1 R0 (8 * 49 - 0 - 49 - 49) 6 1 7 42 1 127 49 hB0 hv0 hv1 hR0
      (by norm_num) (by norm_num) (by norm_num) (by norm_num) (by norm_num)
  · rw [hT1]
    exact byteSpec_mid 49 A1 v1 S1 (8 * 49 - 49 - 49) 49 7 34 hA1 hS1
      (by norm_num) (by norm_num)
  · rw [hT1]
    exact byteSpec_mid 49 A1 v1 S1 (8 * 49 - 49 - 49) 49 8 26 hA1 hS1
      (by norm_num) (by norm_num)
  · rw [hT1]
    exact byteSpec_mid 49 A1 v1 S1 (8 * 49 - 49 - 49) 49 9 18 hA1 hS1
      (by norm_num) (by norm_num)
  · rw [hT1]
    exact byteSpec_mid 49 A1 v1 S1 (8 * 49 - 49 - 49) 49 10 10 hA1 hS1
      (by norm_num) (by norm_num)
  · rw [hT1]
    exact byteSpec_mid 49 A1 v1 S1 (8 * 49 - 49 - 49) 49 11 2 hA1 hS1
      (by norm_num) (by norm_num)
  · rw [hU1]
    exact byteSpec_bnd 49 B1 v1 v2 R1 (8 * 49 - 49 - 49 - 49) 12 2 6 43 3 63 49 hB1 hv1 hv2 hR1
      (by norm_num) (by norm_num) (by norm_num) (by norm_num) (by norm_num)
  · rw [hT2]
    exact byteSpec_mid 49 A2 v2 S2 (8 * 49 - 98 - 49) 49 13 35 hA2 hS2
      (by norm_num) (by norm_num)
  · rw [hT2]
    exact byteSpec_mid 49 A2 v2 S2 (8 * 49 - 98 - 49) 49 14 27 hA2 hS2
      (by norm_num) (by norm_num)
  · rw [hT2]
    exact byteSpec_mid 49 A2 v2 S2 (8 * 49 - 98 - 49) 49 15 19 hA2 hS2
      (by norm_num) (by norm_num)
  · rw [hT2]
    exact byteSpec_mid 49 A2 v2 S2 (8 * 49 - 98 - 49) 49 16 11 hA2 hS2
      (by norm_num) (by norm_num)
  · rw [hT2]
    exact byteSpec_mid 49 A2 v2 S2 (8 * 49 - 98 - 49) 49 17 3 hA2 hS2
      (by norm_num) (by norm_num)
  · rw [hU2]
    exact byteSpec_bnd 49 B2 v2 v3 R2 (8 * 49 - 98 - 49 - 49) 18 3 5 44 7 31 49 hB2 hv2 hv3 hR2
      (by norm_num) (by norm_num) (by norm_num) (by norm_num) (by norm_num)
  · rw [hT3]
    exact byteSpec_mid 49 A3 v3 S3 (8 * 49 - 147 - 49) 49 19 36 hA3 hS3
      (by norm_num) (by norm_num)
  · rw [hT3]
    exact byteSpec_mid 49 A3 v3 S3 (8 * 49 - 147 - 49) 49 20 28 hA3 hS3
      (by norm_num) (by norm_num)
  · rw [hT3]
    exact byteSpec_mid 49 A3 v3 S3 (8 * 49 - 147 - 49) 49 21 20 hA3 hS3
      (by norm_num) (by norm_num)
  · rw [hT3]
    exact byteSpec_mid 49 A3 v3 S3 (8 * 49 - 147 - 49) 49 22 12 hA3 hS3
      (by norm_num) (by norm_num)
  · rw [hT3]
    exact byteSpec_mid 49 A3 v3 S3 (8 * 49 - 147 - 49) 49 23 4 hA3 hS3
      (by norm_num) (by norm_num)
  · rw [hU3]
    exact byteSpec_bnd 49 B3 v3 v4 R3 (8 * 49 - 147 - 49 - 49) 24 4 4 45 15 15 49 hB3 hv3 hv4 hR3
      (by norm_num) (by norm_num) (by norm_num) (by norm_num) (by norm_num)
  · rw [hT4]
    exact byteSpec_mid 49 A4 v4 S4 (8 * 49 - 196 - 49) 49 25 37 hA4 hS4
      (by norm_num) (by norm_num)
  · rw [hT4]
    exact byteSpec_mid 49 A4 v4 S4 (8 * 49 - 196 - 49) 49 26 29 hA4 hS4
      (by norm_num) (by norm_num)
  · rw [hT4]
    exact byteSpec_mid 49 A4 v4 S4 (8 * 49 - 196 - 49) 49 27 21 hA4 hS4
      (by norm_num) (by norm_num)
  · rw [hT4]
    exact byteSpec_mid 49 A4 v4 S4 (8 * 49 - 196 - 49) 49 28 13 hA4 hS4
      (by norm_num) (by norm_num)
  · rw [hT4]
    exact byteSpec_mid 49 A4 v4 S4 (8 * 49 - 196 - 49) 49 29 5 hA4 hS4
      (by norm_num) (by norm_num)
  · rw [hU4]
    exact byteSpec_bnd 49 B4 v4 v5 R4 (8 * 49 - 196 - 49 - 49) 30 5 3 46 31 7 49 hB4 hv4 hv5 hR4
      (by norm_num) (by norm_num) (by norm_num) (by norm_num) (by norm_num)
  · rw [hT5]
    exact byteSpec_mid 49 A5 v5 S5 (8 * 49 - 245 - 49) 49 31 38 hA5 hS5
      (by norm_num) (by norm_num)
  · rw [hT5]
    exact byteSpec_mid 49 A5 v5 S5 (8 * 49 - 245 - 49) 49 32 30 hA5 hS5
      (by norm_num) (by norm_num)
  · rw [hT5]
    exact byteSpec_mid 49 A5 v5 S5 (8 * 49 - 245 - 49) 49 33 22 hA5 hS5
      (by norm_num) (by norm_num)
  · rw [hT5]
    exact byteSpec_mid 49 A5 v5 S5 (8 * 49 - 245 - 49) 49 34 14 hA5 hS5
      (by norm_num) (by norm_num)
  · rw [hT5]
    exact byteSpec_mid 49 A5 v5 S5 (8 * 49 - 245 - 49) 49 35 6 hA5 hS5
      (by norm_num) (by norm_num)
  · rw [hU5]
    exact byteSpec_bnd 49 B5 v5 v6 R5 (8 * 49 - 245 - 49 - 49) 36 6 2 47 63 3 49 hB5 hv5 hv6 hR5
      (by norm_num) (by norm_num) (by norm_num) (by norm_num) (by norm_num)
  · rw [hT6]
    exact byteSpec_mid 49 A6 v6 S6 (8 * 49 - 294 - 49) 49 37 39 hA6 hS6
      (by norm_num) (by norm_num)
  · rw [hT6]
    exact byteSpec_mid 49 A6 v6 S6 (8 * 49 - 294 - 49) 49 38 31 hA6 hS6
      (by norm_num) (by norm_num)
  · rw [hT6]
    exact byteSpec_mid 49 A6 v6 S6 (8 * 49 - 294 - 49) 49 39 23 hA6 hS6
      (by norm_num) (by norm_num)
  · rw [hT6]
    exact byteSpec_mid 49 A6 v6 S6 (8 * 49 - 294 - 49) 49 40 15 hA6 hS6
      (by norm_num) (by norm_num)
  · rw [hT6]
    exact byteSpec_mid 49 A6 v6 S6 (8 * 49 - 294 - 49) 49 41 7 hA6 hS6
      (by norm_num) (by norm_num)
  · rw [hU6]
    exact byteSpec_bnd 49 B6 v6 v7 R6 (8 * 49 - 294 - 49 - 49) 42 7 1 48 127 1 49 hB6 hv6 hv7 hR6
      (by norm_num) (by norm_num) (by norm_num) (by norm_num) (by norm_num)
  · rw [hT7]
    exact byteSpec_mid 49 A7 v7 S7 (8 * 49 - 343 - 49) 49 43 40 hA7 hS7
      (by norm_num) (by norm_num)
  · rw [hT7]
    exact byteSpec_mid 49 A7 v7 S7 (8 * 49 - 343 - 49) 49 44 32 hA7 hS7
      (by norm_num) (by norm_num)
  · rw [hT7]
    exact byteSpec_mid 49 A7 v7 S7 (8 * 49 - 343 - 49) 49 45 24 hA7 hS7
      (by norm_num) (by norm_num)
  · rw [hT7]
    exact byteSpec_mid 49 A7 v7 S7 (8 * 49 - 343 - 49) 49 46 16 hA7 hS7
      (by norm_num) (by norm_num)
  · rw [hT7]
    exact byteSpec_mid 49 A7 v7 S7 (8 * 49 - 343 - 49) 49 47 8 hA7 hS7
      (by norm_num) (by norm_num)
  · rw [hT7]
    exact byteSpec_mid0 49 A7 v7 S7 (8 * 49 - 343 - 49) 49 48 hA7 hS7
      (by norm_num) (by norm_num)

set_option maxRecDepth 16000 in
set_option maxHeartbeats 1000000 in
theorem c5_pack_eq_50 (v0 v1 v2 v3 v4 v5 v6 v7 : Nat) (hv0 : v0 < 2 ^ 50) (hv1 : v1 < 2 ^ 50) (hv2 : v2 < 2 ^ 50) (hv3 : v3 < 2 ^ 50) (hv4 : v4 < 2 ^ 50) (hv5 : v5 < 2 ^ 50) (hv6 : v6 < 2 ^ 50) (hv7 : v7 < 2 ^ 50) :
    (packSeq (BitPacker.new (List.replicate 50 0)) [(v0, 50), (v1, 50), (v2, 50), (v3, 50), (v4, 50), (v5, 50), (v6, 50), (v7, 50)]).bytes
      = pack_bits_50 v0 v1 v2 v3 v4 v5 v6 v7 := by
  have hvs : ∀ p ∈ ([(v0, 50), (v1, 50), (v2, 50), (v3, 50), (v4, 50), (v5, 50), (v6, 50), (v7, 50)] : List (Nat × Nat)), p.1 < 2 ^ p.2 := by
    intro p hp
    simp only [List.mem_cons, List.not_mem_nil, or_false] at hp
    rcases hp with rfl | rfl | rfl | rfl | rfl | rfl | rfl | rfl
    exacts [hv0, hv1, hv2, hv3, hv4, hv5, hv6, hv7]
  obtain ⟨-, -, -, ⟨hlen, hbytes⟩, -, -⟩ :=
    packSeq_inv 50 [(v0, 50), (v1, 50), (v2, 50), (v3, 50), (v4, 50), (v5, 50), (v6, 50), (v7, 50)] 0 0 _ hvs
      (by norm_num [List.map_cons, List.map_nil, List.sum_cons, List.sum_nil]) (packInv_init 50)
  have key : (packSeq (BitPacker.new (List.replicate 50 0)) [(v0, 50), (v1, 50), (v2, 50), (v3, 50), (v4, 50), (v5, 50), (v6, 50), (v7, 50)]).bytes
      = [ ByteSpec 50 (streamT 50 [(v0, 50), (v1, 50), (v2, 50), (v3, 50), (v4, 50), (v5, 50), (v6, 50), (v7, 50)] 0 0) 0,
          ByteSpec 50 (streamT 50 [(v0, 50), (v1, 50), (v2, 50), (v3, 50), (v4, 50), (v5, 50), (v6, 50), (v7, 50)] 0 0) 1,
          ByteSpec 50 (streamT 50 [(v0, 50), (v1, 50), (v2, 50), (v3, 50), (v4, 50), (v5, 50), (v6, 50), (v7, 50)] 0 0) 2,
          ByteSpec 50 (streamT 50 [(v0, 50), (v1, 50), (v2, 50), (v3, 50), (v4, 50), (v5, 50), (v6, 50), (v7, 50)] 0 0) 3,
          ByteSpec 50 (streamT 50 [(v0, 50), (v1, 50), (v2, 50), (v3, 50), (v4, 50), (v5, 50), (v6, 50), (v7, 50)] 0 0) 4,
          ByteSpec 50 (streamT 50 [(v0, 50), (v1, 50), (v2, 50), (v3, 50), (v4, 50), (v5, 50), (v6, 50), (v7, 50)] 0 0) 5,
          ByteSpec 50 (streamT 50 [(v0, 50), (v1, 50), (v2, 50), (v3, 50), (v4, 50), (v5, 50), (v6, 50), (v7, 50)] 0 0) 6,
          ByteSpec 50 (streamT 50 [(v0, 50), (v1, 50), (v2, 50), (v3, 50), (v4, 50), (v5, 50), (v6, 50), (v7, 50)] 0 0) 7,
          ByteSpec 50 (streamT 50 [(v0, 50), (v1, 50), (v2, 50), (v3, 50), (v4, 50), (v5, 50), (v6, 50), (v7, 50)] 0 0) 8,
          ByteSpec 50 (streamT 50 [(v0, 50), (v1, 50), (v2, 50), (v3, 50), (v4, 50), (v5, 50), (v6, 50), (v7, 50)] 0 0) 9,
          ByteSpec 50 (streamT 50 [(v0, 50), (v1, 50), (v2, 50), (v3, 50), (v4, 50), (v5, 50), (v6, 50), (v7, 50)] 0 0) 10,
          ByteSpec 50 (streamT 50 [(v0, 50), (v1, 50), (v2, 50), (v3, 50), (v4, 50), (v5, 50), (v6, 50), (v7, 50)] 0 0) 11,
          ByteSpec 50 (streamT 50 [(v0, 50), (v1, 50), (v2, 50), (v3, 50), (v4, 50), (v5, 50), (v6, 50), (v7, 50)] 0 0) 12,
          ByteSpec 50 (streamT 50 [(v0, 50), (v1, 50), (v2, 50), (v3, 50), (v4, 50), (v5, 50), (v6, 50), (v7, 50)] 0 0) 13,
          ByteSpec 50 (streamT 50 [(v0, 50), (v1, 50), (v2, 50), (v3, 50), (v4, 50), (v5, 50), (v6, 50), (v7, 50)] 0 0) 14,
          ByteSpec 50 (streamT 50 [(v0, 50), (v1, 50), (v2, 50), (v3, 50), (v4, 50), (v5, 50), (v6, 50), (v7, 50)] 0 0) 15,
          ByteSpec 50 (streamT 50 [(v0, 50), (v1, 50), (v2, 50), (v3, 50), (v4, 50), (v5, 50), (v6, 50), (v7, 50)] 0 0) 16,
          ByteSpec 50 (streamT 50 [(v0, 50), (v1, 50), (v2, 50), (v3, 50), (v4, 50), (v5, 50), (v6, 50), (v7, 50)] 0 0) 17,
          ByteSpec 50 (streamT 50 [(v0, 50), (v1, 50), (v2, 50), (v3, 50), (v4, 50), (v5, 50), (v6, 50), (v7, 50)] 0 0) 18,
          ByteSpec 50 (streamT 50 [(v0, 50), (v1, 50), (v2, 50), (v3, 50), (v4, 50), (v5, 50), (v6, 50), (v7, 50)] 0 0) 19,
          ByteSpec 50 (streamT 50 [(v0, 50), (v1, 50), (v2, 50), (v3, 50), (v4, 50), (v5, 50), (v6, 50), (v7, 50)] 0 0) 20,
          ByteSpec 50 (streamT 50 [(v0, 50), (v1, 50), (v2, 50), (v3, 50), (v4, 50), (v5, 50), (v6, 50), (v7, 50)] 0 0) 21,
          ByteSpec 50 (streamT 50 [(v0, 50), (v1, 50), (v2, 50), (v3, 50), (v4, 50), (v5, 50), (v6, 50), (v7, 50)] 0 0) 22,
          ByteSpec 50 (streamT 50 [(v0, 50), (v1, 50), (v2, 50), (v3, 50), (v4, 50), (v5, 50), (v6, 50), (v7, 50)] 0 0) 23,
          ByteSpec 50 (streamT 50 [(v0, 50), (v1, 50), (v2, 50), (v3, 50), (v4, 50), (v5, 50), (v6, 50), (v7, 50)] 0 0) 24,
          ByteSpec 50 (streamT 50 [(v0, 50), (v1, 50), (v2, 50), (v3, 50), (v4, 50), (v5, 50), (v6, 50), (v7, 50)] 0 0) 25,
          ByteSpec 50 (streamT 50 [(v0, 50), (v1, 50), (v2, 50), (v3, 50), (v4, 50), (v5, 50), (v6, 50), (v7, 50)] 0 0) 26,
          ByteSpec 50 (streamT 50 [(v0, 50), (v1, 50), (v2, 50), (v3, 50), (v4, 50), (v5, 50), (v6, 50), (v7, 50)] 0 0) 27,
          ByteSpec 50 (streamT 50 [(v0, 50), (v1, 50), (v2, 50), (v3, 50), (v4, 50), (v5, 50), (v6, 50), (v7, 50)] 0 0) 28,
          ByteSpec 50 (streamT 50 [(v0, 50), (v1, 50), (v2, 50), (v3, 50), (v4, 50), (v5, 50), (v6, 50), (v7, 50)] 0 0) 29,
          ByteSpec 50 (streamT 50 [(v0, 50), (v1, 50), (v2, 50), (v3, 50), (v4, 50), (v5, 50), (v6, 50), (v7, 50)] 0 0) 30,
          ByteSpec 50 (streamT 50 [(v0, 50), (v1, 50), (v2, 50), (v3, 50), (v4, 50), (v5, 50), (v6, 50), (v7, 50)] 0 0) 31,
          ByteSpec 50 (streamT 50 [(v0, 50), (v1, 50), (v2, 50), (v3, 50), (v4, 50), (v5, 50), (v6, 50), (v7, 50)] 0 0) 32,
          ByteSpec 50 (streamT 50 [(v0, 50), (v1, 50), (v2, 50), (v3, 50), (v4, 50), (v5, 50), (v6, 50), (v7, 50)] 0 0) 33,
          ByteSpec 50 (streamT 50 [(v0, 50), (v1, 50), (v2, 50), (v3, 50), (v4, 50), (v5, 50), (v6, 50), (v7, 50)] 0 0) 34,
          ByteSpec 50 (streamT 50 [(v0, 50), (v1, 50), (v2, 50), (v3, 50), (v4, 50), (v5, 50), (v6, 50), (v7, 50)] 0 0) 35,
          ByteSpec 50 (streamT 50 [(v0, 50), (v1, 50), (v2, 50), (v3, 50), (v4, 50), (v5, 50), (v6, 50), (v7, 50)] 0 0) 36,
          ByteSpec 50 (streamT 50 [(v0, 50), (v1, 50), (v2, 50), (v3, 50), (v4, 50), (v5, 50), (v6, 50), (v7, 50)] 0 0) 37,
          ByteSpec 50 (streamT 50 [(v0, 50), (v1, 50), (v2, 50), (v3, 50), (v4, 50), (v5, 50), (v6, 50), (v7, 50)] 0 0) 38,
          ByteSpec 50 (streamT 50 [(v0, 50), (v1, 50), (v2, 50), (v3, 50), (v4, 50), (v5, 50), (v6, 50), (v7, 50)] 0 0) 39,
          ByteSpec 50 (streamT 50 [(v0, 50), (v1, 50), (v2, 50), (v3, 50), (v4, 50), (v5, 50), (v6, 50), (v7, 50)] 0 0) 40,
          ByteSpec 50 (streamT 50 [(v0, 50), (v1, 50), (v2, 50), (v3, 50), (v4, 50), (v5, 50), (v6, 50), (v7, 50)] 0 0) 41,
          ByteSpec 50 (streamT 50 [(v0, 50), (v1, 50), (v2, 50), (v3, 50), (v4, 50), (v5, 50), (v6, 50), (v7, 50)] 0 0) 42,
          ByteSpec 50 (streamT 50 [(v0, 50), (v1, 50), (v2, 50), (v3, 50), (v4, 50), (v5, 50), (v6, 50), (v7, 50)] 0 0) 43,
          ByteSpec 50 (streamT 50 [(v0, 50), (v1, 50), (v2, 50), (v3, 50), (v4, 50), (v5, 50), (v6, 50), (v7, 50)] 0 0) 44,
          ByteSpec 50 (streamT 50 [(v0, 50), (v1, 50), (v2, 50), (v3, 50), (v4, 50), (v5, 50), (v6, 50), (v7, 50)] 0 0) 45,
          ByteSpec 50 (streamT 50 [(v0, 50), (v1, 50), (v2, 50), (v3, 50), (v4, 50), (v5, 50), (v6, 50), (v7, 50)] 0 0) 46,
          ByteSpec 50 (streamT 50 [(v0, 50), (v1, 50), (v2, 50), (v3, 50), (v4, 50), (v5, 50), (v6, 50), (v7, 50)] 0 0) 47,
          ByteSpec 50 (streamT 50 [(v0, 50), (v1, 50), (v2, 50), (v3, 50), (v4, 50), (v5, 50), (v6, 50), (v7, 50)] 0 0) 48,
          ByteSpec 50 (streamT 50 [(v0, 50), (v1, 50), (v2, 50), (v3, 50), (v4, 50), (v5, 50), (v6, 50), (v7, 50)] 0 0) 49 ] :=
    (list_eq_map_range_of_getD _ _ 50 hlen hbytes).trans (by rfl)
  have key2 : pack_bits_50 v0 v1 v2 v3 v4 v5 v6 v7
      = [ u8 (((v0 >>> 42) &&& 0xff)),
          u8 (((v0 >>> 34) &&& 0xff)),
          u8 (((v0 >>> 26) &&& 0xff)),
          u8 (((v0 >>> 18) &&& 0xff)),
          u8 (((v0 >>> 10) &&& 0xff)),
          u8 (((v0 >>> 2) &&& 0xff)),
          u8 (((((v0) &&& 0x3) <<< 6) ||| ((v1 >>> 44) &&& 0x3f))),
          u8 (((v1 >>> 36) &&& 0xff)),
          u8 (((v1 >>> 28) &&& 0xff)),
          u8 (((v1 >>> 20) &&& 0xff)),
          u8 (((v1 >>> 12) &&& 0xff)),
          u8 (((v1 >>> 4) &&& 0xff)),
          u8 (((((v1) &&& 0xf) <<< 4) ||| ((v2 >>> 46) &&& 0xf))),
          u8 (((v2 >>> 38) &&& 0xff)),
          u8 (((v2 >>> 30) &&& 0xff)),
          u8 (((v2 >>> 22) &&& 0xff)),
          u8 (((v2 >>> 14) &&& 0xff)),
          u8 (((v2 >>> 6) &&& 0xff)),
          u8 (((((v2) &&& 0x3f) <<< 2) ||| ((v3 >>> 48) &&& 0x3))),
          u8 (((v3 >>> 40) &&& 0xff)),
          u8 (((v3 >>> 32) &&& 0xff)),
          u8 (((v3 >>> 24) &&& 0xff)),
          u8 (((v3 >>> 16) &&& 0xff)),
          u8 (((v3 >>> 8) &&& 0xff)),
          u8 (((v3) &&& 0xff)),
          u8 (((v4 >>> 42) &&& 0xff)),
          u8 (((v4 >>> 34) &&& 0xff)),
          u8 (((v4 >>> 26) &&& 0xff)),
          u8 (((v4 >>> 18) &&& 0xff)),
          u8 (((v4 >>> 10) &&& 0xff)),
          u8 (((v4 >>> 2) &&& 0xff)),
          u8 (((((v4) &&& 0x3) <<< 6) ||| ((v5 >>> 44) &&& 0x3f))),
          u8 (((v5 >>> 36) &&& 0xff)),
          u8 (((v5 >>> 28) &&& 0xff)),
          u8 (((v5 >>> 20) &&& 0xff)),
          u8 (((v5 >>> 12) &&& 0xff)),
          u8 (((v5 >>> 4) &&& 0xff)),
          u8 (((((v5) &&& 0xf) <<< 4) ||| ((v6 >>> 46) &&& 0xf))),
          u8 (((v6 >>> 38) &&& 0xff)),
          u8 (((v6 >>> 30) &&& 0xff)),
          u8 (((v6 >>> 22) &&& 0xff)),
          u8 (((v6 >>> 14) &&& 0xff)),
          u8 (((v6 >>> 6) &&& 0xff)),
          u8 (((((v6) &&& 0x3f) <<< 2) ||| ((v7 >>> 48) &&& 0x3))),
          u8 (((v7 >>> 40) &&& 0xff)),
          u8 (((v7 >>> 32) &&& 0xff)),
          u8 (((v7 >>> 24) &&& 0xff)),
          u8 (((v7 >>> 16) &&& 0xff)),
          u8 (((v7 >>> 8) &&& 0xff)),
          u8 (((v7) &&& 0xff)) ] := rfl
  obtain ⟨A0, S0, hT0, hA0, hS0⟩ :=
    streamT_decomp 50 [(v0, 50), (v1, 50), (v2, 50), (v3, 50), (v4, 50), (v5, 50), (v6, 50), (v7, 50)] [] [(v1, 50), (v2, 50), (v3, 50), (v4, 50), (v5, 50), (v6, 50), (v7, 50)] v0 50 0 rfl rfl hvs
      (by norm_num [List.map_cons, List.map_nil, List.sum_cons, List.sum_nil])
  obtain ⟨A1, S1, hT1, hA1, hS1⟩ :=
    streamT_decomp 50 [(v0, 50), (v1, 50), (v2, 50), (v3, 50), (v4, 50), (v5, 50), (v6, 50), (v7, 50)] [(v0, 50)] [(v2, 50), (v3, 50), (v4, 50), (v5, 50), (v6, 50), (v7, 50)] v1 50 50 rfl rfl hvs
      (by norm_num [List.map_cons, List.map_nil, List.sum_cons, List.sum_nil])
  obtain ⟨A2, S2, hT2, hA2, hS2⟩ :=
    streamT_decomp 50 [(v0, 50), (v1, 50), (v2, 50), (v3, 50), (v4, 50), (v5, 50), (v6, 50), (v7, 50)] [(v0, 50), (v1, 50)] [(v3, 50), (v4, 50), (v5, 50), (v6, 50), (v7, 50)] v2 50 100 rfl rfl hvs
      (by norm_num [List.map_cons, List.map_nil, List.sum_cons, List.sum_nil])
  obtain ⟨A3, S3, hT3, hA3, hS3⟩ :=
    streamT_decomp 50 [(v0, 50), (v1, 50), (v2, 50), (v3, 50), (v4, 50), (v5, 50), (v6, 50), (v7, 50)] [(v0, 50), (v1, 50), (v2, 50)] [(v4, 50), (v5, 50), (v6, 50), (v7, 50)] v3 50 150 rfl rfl hvs
      (by norm_num [List.map_cons, List.map_nil, List.sum_cons, List.sum_nil])
  obtain ⟨A4, S4, hT4, hA4, hS4⟩ :=
    streamT_decomp 50 [(v0, 50), (v1, 50), (v2, 50), (v3, 50), (v4, 50), (v5, 50), (v6, 50), (v7, 50)] [(v0, 50), (v1, 50), (v2, 50), (v3, 50)] [(v5, 50), (v6, 50), (v7, 50)] v4 50 200 rfl rfl hvs
      (by norm_num [List.map_cons, List.map_nil, List.sum_cons, List.sum_nil])
  obtain ⟨A5, S5, hT5, hA5, hS5⟩ :=
    streamT_decomp 50 [(v0, 50), (v1, 50), (v2, 50), (v3, 50), (v4, 50), (v5, 50), (v6, 50), (v7, 50)] [(v0, 50), (v1, 50), (v2, 50), (v3, 50), (v4, 50)] [(v6, 50), (v7, 50)] v5 50 250 rfl rfl hvs
      (by norm_num [List.map_cons, List.map_nil, List.sum_cons, List.sum_nil])
  obtain ⟨A6, S6, hT6, hA6, hS6⟩ :=
    streamT_decomp 50 [(v0, 50), (v1, 50), (v2, 50), (v3, 50), (v4, 50), (v5, 50), (v6, 50), (v7, 50)] [(v0, 50), (v1, 50), (v2, 50), (v3, 50), (v4, 50), (v5, 50)] [(v7, 50)] v6 50 300 rfl rfl hvs
      (by norm_num [List.map_cons, List.map_nil, List.sum_cons, List.sum_nil])
  obtain ⟨A7, S7, hT7, hA7, hS7⟩ :=
    streamT_decomp 50 [(v0, 50), (v1, 50), (v2, 50), (v3, 50), (v4, 50), (v5, 50), (v6, 50), (v7, 50)] [(v0, 50), (v1, 50), (v2, 50), (v3, 50), (v4, 50), (v5, 50), (v6, 50)] [] v7 50 350 rfl rfl hvs
      (by norm_num [List.map_cons, List.map_nil, List.sum_cons, List.sum_nil])
  obtain ⟨B0, R0, hU0, hB0, hR0⟩ :=
    streamT_decomp2 50 [(v0, 50), (v1, 50), (v2, 50), (v3, 50), (v4, 50), (v5, 50), (v6, 50), (v7, 50)] [] [(v2, 50), (v3, 50), (v4, 50), (v5, 50), (v6, 50), (v7, 50)] v0 v1 50 50 0 rfl rfl hvs
      (by norm_num [List.map_cons, List.map_nil, List.sum_cons, List.sum_nil])
  obtain ⟨B1, R1, hU1, hB1, hR1⟩ :=
    streamT_decomp2 50 [(v0, 50), (v1, 50), (v2, 50), (v3, 50), (v4, 50), (v5, 50), (v6, 50), (v7, 50)] [(v0, 50)] [(v3, 50), (v4, 50), (v5, 50), (v6, 50), (v7, 50)] v1 v2 50 50 50 rfl rfl hvs
      (by norm_num [List.map_cons, List.map_nil, List.sum_cons, List.sum_nil])
  obtain ⟨B2, R2, hU2, hB2, hR2⟩ :=
    streamT_decomp2 50 [(v0, 50), (v1, 50), (v2, 50), (v3, 50), (v4, 50), (v5, 50), (v6, 50), (v7, 50)] [(v0, 50), (v1, 50)] [(v4, 50), (v5, 50), (v6, 50), (v7, 50)] v2 v3 50 50 100 rfl rfl hvs
      (by norm_num [List.map_cons, List.map_nil, List.sum_cons, List.sum_nil])
  obtain ⟨B4, R4, hU4, hB4, hR4⟩ :=
    streamT_decomp2 50 [(v0, 50), (v1, 50), (v2, 50), (v3, 50), (v4, 50), (v5, 50), (v6, 50), (v7, 50)] [(v0, 50), (v1, 50), (v2, 50), (v3, 50)] [(v6, 50), (v7, 50)] v4 v5 50 50 200 rfl rfl hvs
      (by norm_num [List.map_cons, List.map_nil, List.sum_cons, List.sum_nil])
  obtain ⟨B5, R5, hU5, hB5, hR5⟩ :=
    streamT_decomp2 50 [(v0, 50), (v1, 50), (v2, 50), (v3, 50), (v4, 50), (v5, 50), (v6, 50), (v7, 50)] [(v0, 50), (v1, 50), (v2, 50), (v3, 50), (v4, 50)] [(v7, 50)] v5 v6 50 50 250 rfl rfl hvs
      (by norm_num [List.map_cons, List.map_nil, List.sum_cons, List.sum_nil])
  obtain ⟨B6, R6, hU6, hB6, hR6⟩ :=
    streamT_decomp2 50 [(v0, 50), (v1, 50), (v2, 50), (v3, 50), (v4, 50), (v5, 50), (v6, 50), (v7, 50)] [(v0, 50), (v1, 50), (v2, 50), (v3, 50), (v4, 50), (v5, 50)] [] v6 v7 50 50 300 rfl rfl hvs
      (by norm_num [List.map_cons, List.map_nil, List.sum_cons, List.sum_nil])
  rw [key, key2]
  simp only [List.cons.injEq]
  refine ⟨?_, ?_, ?_, ?_, ?_, ?_, ?_, ?_, ?_, ?_, ?_, ?_, ?_, ?_, ?_, ?_, ?_, ?_, ?_, ?_, ?_, ?_, ?_, ?_, ?_, ?_, ?_, ?_, ?_, ?_, ?_, ?_, ?_, ?_, ?_, ?_, ?_, ?_, ?_, ?_, ?_, ?_, ?_, ?_, ?_, ?_, ?_, ?_, ?_, ?_, trivial⟩
  · rw [hT0]
    exact byteSpec_mid 50 A0 v0 S0 (8 * 50 - 0 - 50) 50 0 42 hA0 hS0
      (by norm_num) (by norm_num)
  · rw [hT0]
    exact byteSpec_mid 50 A0 v0 S0 (8 * 50 - 0 - 50) 50 1 34 hA0 hS0
      (by norm_num) (by norm_num)
  · rw [hT0]
    exact byteSpec_mid 50 A0 v0 S0 (8 * 50 - 0 - 50) 50 2 26 hA0 hS0
      (by norm_num) (by norm_num)
  · rw [hT0]
    exact byteSpec_mid 50 A0 v0 S0 (8 * 50 - 0 - 50) 50 3 18 hA0 hS0
      (by norm_num) (by norm_num)
  · rw [hT0]
    exact byteSpec_mid 50 A0 v0 S0 (8 * 50 - 0 - 50) 50 4 10 hA0 hS0
      (by norm_num) (by norm_num)
  · rw [hT0]
    exact byteSpec_mid 50 A0 v0 S0 (8 * 50 - 0 - 50) 50 5 2 hA0 hS0
      (by norm_num) (by norm_num)
  · rw [hU0]
    exact byteSpec_bnd 50 B0 v0 v1 R0 (8 * 50 - 0 - 50 - 50) 6 2 6 44 3 63 50 hB0 hv0 hv1 hR0
      (by norm_num) (by norm_num) (by norm_num) (by norm_num) (by norm_num)
  · rw [hT1]
    exact byteSpec_mid 50 A1 v1 S1 (8 * 50 - 50 - 50) 50 7 36 hA1 hS1
      (by norm_num) (by norm_num)
  · rw [hT1]
    exact byteSpec_mid 50 A1 v1 S1 (8 * 50 - 50 - 50) 50 8 28 hA1 hS1
      (by norm_num) (by norm_num)
  · rw [hT1]
    exact byteSpec_mid 50 A1 v1 S1 (8 * 50 - 50 - 50) 50 9 20 hA1 hS1
      (by norm_num) (by norm_num)
  · rw [hT1]
    exact byteSpec_mid 50 A1 v1 S1 (8 * 50 - 50 - 50) 50 10 12 hA1 hS1
      (by norm_num) (by norm_num)
  · rw [hT1]
    exact byteSpec_mid 50 A1 v1 S1 (8 * 50 - 50 - 50) 50 11 4 hA1 hS1
      (by norm_num) (by norm_num)
  · rw [hU1]
    exact byteSpec_bnd 50 B1 v1 v2 R1 (8 * 50 - 50 - 50 - 50) 12 4 4 46 15 15 50 hB1 hv1 hv2 hR1
      (by norm_num) (by norm_num) (by norm_num) (by norm_num) (by norm_num)
  · rw [hT2]
    exact byteSpec_mid 50 A2 v2 S2 (8 * 50 - 100 - 50) 50 13 38 hA2 hS2
      (by norm_num) (by norm_num)
  · rw [hT2]
    exact byteSpec_mid 50 A2 v2 S2 (8 * 50 - 100 - 50) 50 14 30 hA2 hS2
      (by norm_num) (by norm_num)
  · rw [hT2]
    exact byteSpec_mid 50 A2 v2 S2 (8 * 50 - 100 - 50) 50 15 22 hA2 hS2
      (by norm_num) (by norm_num)
  · rw [hT2]
    exact byteSpec_mid 50 A2 v2 S2 (8 * 50 - 100 - 50) 50 16 14 hA2 hS2
      (by norm_num) (by norm_num)
  · rw [hT2]
    exact byteSpec_mid 50 A2 v2 S2 (8 * 50 - 100 - 50) 50 17 6 hA2 hS2
      (by norm_num) (by norm_num)
  · rw [hU2]
    exact byteSpec_bnd 50 B2 v2 v3 R2 (8 * 50 - 100 - 50 - 50) 18 6 2 48 63 3 50 hB2 hv2 hv3 hR2
      (by norm_num) (by norm_num) (by norm_num) (by norm_num) (by norm_num)
  · rw [hT3]
    exact byteSpec_mid 50 A3 v3 S3 (8 * 50 - 150 - 50) 50 19 40 hA3 hS3
      (by norm_num) (by norm_num)
  · rw [hT3]
    exact byteSpec_mid 50 A3 v3 S3 (8 * 50 - 150 - 50) 50 20 32 hA3 hS3
      (by norm_num) (by norm_num)
  · rw [hT3]
    exact byteSpec_mid 50 A3 v3 S3 (8 * 50 - 150 - 50) 50 21 24 hA3 hS3
      (by norm_num) (by norm_num)
  · rw [hT3]
    exact byteSpec_mid 50 A3 v3 S3 (8 * 50 - 150 - 50) 50 22 16 hA3 hS3
      (by norm_num) (by norm_num)
  · rw [hT3]
    exact byteSpec_mid 50 A3 v3 S3 (8 * 50 - 150 - 50) 50 23 8 hA3 hS3
      (by norm_num) (by norm_num)
  · rw [hT3]
    exact byteSpec_mid0 50 A3 v3 S3 (8 * 50 - 150 - 50) 50 24 hA3 hS3
      (by norm_num) (by norm_num)
  · rw [hT4]
    exact byteSpec_mid 50 A4 v4 S4 (8 * 50 - 200 - 50) 50 25 42 hA4 hS4
      (by norm_num) (by norm_num)
  · rw [hT4]
    exact byteSpec_mid 50 A4 v4 S4 (8 * 50 - 200 - 50) 50 26 34 hA4 hS4
      (by norm_num) (by norm_num)
  · rw [hT4]
    exact byteSpec_mid 50 A4 v4 S4 (8 * 50 - 200 - 50) 50 27 26 hA4 hS4
      (by norm_num) (by norm_num)
  · rw [hT4]
    exact byteSpec_mid 50 A4 v4 S4 (8 * 50 - 200 - 50) 50 28 18 hA4 hS4
      (by norm_num) (by norm_num)
  · rw [hT4]
    exact byteSpec_mid 50 A4 v4 S4 (8 * 50 - 200 - 50) 50 29 10 hA4 hS4
      (by norm_num) (by norm_num)
  · rw [hT4]
    exact byteSpec_mid 50 A4 v4 S4 (8 * 50 - 200 - 50) 50 30 2 hA4 hS4
      (by norm_num) (by norm_num)
  · rw [hU4]
    exact byteSpec_bnd 50 B4 v4 v5 R4 (8 * 50 - 200 - 50 - 50) 31 2 6 44 3 63 50 hB4 hv4 hv5 hR4
      (by norm_num) (by norm_num) (by norm_num) (by norm_num) (by norm_num)
  · rw [hT5]
    exact byteSpec_mid 50 A5 v5 S5 (8 * 50 - 250 - 50) 50 32 36 hA5 hS5
      (by norm_num) (by norm_num)
  · rw [hT5]
    exact byteSpec_mid 50 A5 v5 S5 (8 * 50 - 250 - 50) 50 33 28 hA5 hS5
      (by norm_num) (by norm_num)
  · rw [hT5]
    exact byteSpec_mid 50 A5 v5 S5 (8 * 50 - 250 - 50) 50 34 20 hA5 hS5
      (by norm_num) (by norm_num)
  · rw [hT5]
    exact byteSpec_mid 50 A5 v5 S5 (8 * 50 - 250 - 50) 50 35 12 hA5 hS5
      (by norm_num) (by norm_num)
  · rw [hT5]
    exact byteSpec_mid 50 A5 v5 S5 (8 * 50 - 250 - 50) 50 36 4 hA5 hS5
      (by norm_num) (by norm_num)
  · rw [hU5]
    exact byteSpec_bnd 50 B5 v5 v6 R5 (8 * 50 - 250 - 50 - 50) 37 4 4 46 15 15 50 hB5 hv5 hv6 hR5
      (by norm_num) (by norm_num) (by norm_num) (by norm_num) (by norm_num)
  · rw [hT6]
    exact byteSpec_mid 50 A6 v6 S6 (8 * 50 - 300 - 50) 50 38 38 hA6 hS6
      (by norm_num) (by norm_num)
  · rw [hT6]
    exact byteSpec_mid 50 A6 v6 S6 (8 * 50 - 300 - 50) 50 39 30 hA6 hS6
      (by norm_num) (by norm_num)
  · rw [hT6]
    exact byteSpec_mid 50 A6 v6 S6 (8 * 50 - 300 - 50) 50 40 22 hA6 hS6
      (by norm_num) (by norm_num)
  · rw [hT6]
    exact byteSpec_mid 50 A6 v6 S6 (8 * 50 - 300 - 50) 50 41 14 hA6 hS6
      (by norm_num) (by norm_num)
  · rw [hT6]
    exact byteSpec_mid 50 A6 v6 S6 (8 * 50 - 300 - 50) 50 42 6 hA6 hS6
      (by norm_num) (by norm_num)
  · rw [hU6]
    exact byteSpec_bnd 50 B6 v6 v7 R6 (8 * 50 - 300 - 50 - 50) 43 6 2 48 63 3 50 hB6 hv6 hv7 hR6
      (by norm_num) (by norm_num) (by norm_num) (by norm_num) (by norm_num)
  · rw [hT7]
    exact byteSpec_mid 50 A7 v7 S7 (8 * 50 - 350 - 50) 50 44 40 hA7 hS7
      (by norm_num) (by norm_num)
  · rw [hT7]
    exact byteSpec_mid 50 A7 v7 S7 (8 * 50 - 350 - 50) 50 45 32 hA7 hS7
      (by norm_num) (by norm_num)
  · rw [hT7]
    exact byteSpec_mid 50 A7 v7 S7 (8 * 50 - 350 - 50) 50 46 24 hA7 hS7
      (by norm_num) (by norm_num)
  · rw [hT7]
    exact byteSpec_mid 50 A7 v7 S7 (8 * 50 - 350 - 50) 50 47 16 hA7 hS7
      (by norm_num) (by norm_num)
  · rw [hT7]
    exact byteSpec_mid 50 A7 v7 S7 (8 * 50 - 350 - 50) 50 48 8 hA7 hS7
      (by norm_num) (by norm_num)
  · rw [hT7]
    exact byteSpec_mid0 50 A7 v7 S7 (8 * 50 - 350 - 50) 50 49 hA7 hS7
      (by norm_num) (by norm_num)

set_option maxRecDepth 16000 in
set_option maxHeartbeats 1000000 in
theorem c5_pack_eq_51 (v0 v1 v2 v3 v4 v5 v6 v7 : Nat) (hv0 : v0 < 2 ^ 51) (hv1 : v1 < 2 ^ 51) (hv2 : v2 < 2 ^ 51) (hv3 : v3 < 2 ^ 51) (hv4 : v4 < 2 ^ 51) (hv5 : v5 < 2 ^ 51) (hv6 : v6 < 2 ^ 51) (hv7 : v7 < 2 ^ 51) :
    (packSeq (BitPacker.new (List.replicate 51 0)) [(v0, 51), (v1, 51), (v2, 51), (v3, 51), (v4, 51), (v5, 51), (v6, 51), (v7, 51)]).bytes
      = pack_bits_51 v0 v1 v2 v3 v4 v5 v6 v7 := by
  have hvs : ∀ p ∈ ([(v0, 51), (v1, 51), (v2, 51), (v3, 51), (v4, 51), (v5, 51), (v6, 51), (v7, 51)] : List (Nat × Nat)), p.1 < 2 ^ p.2 := by
    intro p hp
    simp only [List.mem_cons, List.not_mem_nil, or_false] at hp
    rcases hp with rfl | rfl | rfl | rfl | rfl | rfl | rfl | rfl
    exacts [hv0, hv1, hv2, hv3, hv4, hv5, hv6, hv7]
  obtain ⟨-, -, -, ⟨hlen, hbytes⟩, -, -⟩ :=
    packSeq_inv 51 [(v0, 51), (v1, 51), (v2, 51), (v3, 51), (v4, 51), (v5, 51), (v6, 51), (v7, 51)] 0 0 _ hvs
      (by norm_num [List.map_cons, List.map_nil, List.sum_cons, List.sum_nil]) (packInv_init 51)
  have key : (packSeq (BitPacker.new (List.replicate 51 0)) [(v0, 51), (v1, 51), (v2, 51), (v3, 51), (v4, 51), (v5, 51), (v6, 51), (v7, 51)]).bytes
      = [ ByteSpec 51 (streamT 51 [(v0, 51), (v1, 51), (v2, 51), (v3, 51), (v4, 51), (v5, 51), (v6, 51), (v7, 51)] 0 0) 0,
          ByteSpec 51 (streamT 51 [(v0, 51), (v1, 51), (v2, 51), (v3, 51), (v4, 51), (v5, 51), (v6, 51), (v7, 51)] 0 0) 1,
          ByteSpec 51 (streamT 51 [(v0, 51), (v1, 51), (v2, 51), (v3, 51), (v4, 51), (v5, 51), (v6, 51), (v7, 51)] 0 0) 2,
          ByteSpec 51 (streamT 51 [(v0, 51), (v1, 51), (v2, 51), (v3, 51), (v4, 51), (v5, 51), (v6, 51), (v7, 51)] 0 0) 3,
          ByteSpec 51 (streamT 51 [(v0, 51), (v1, 51), (v2, 51), (v3, 51), (v4, 51), (v5, 51), (v6, 51), (v7, 51)] 0 0) 4,
          ByteSpec 51 (streamT 51 [(v0, 51), (v1, 51), (v2, 51), (v3, 51), (v4, 51), (v5, 51), (v6, 51), (v7, 51)] 0 0) 5,
          ByteSpec 51 (streamT 51 [(v0, 51), (v1, 51), (v2, 51), (v3, 51), (v4, 51), (v5, 51), (v6, 51), (v7, 51)] 0 0) 6,
          ByteSpec 51 (streamT 51 [(v0, 51), (v1, 51), (v2, 51), (v3, 51), (v4, 51), (v5, 51), (v6, 51), (v7, 51)] 0 0) 7,
          ByteSpec 51 (streamT 51 [(v0, 51), (v1, 51), (v2, 51), (v3, 51), (v4, 51), (v5, 51), (v6, 51), (v7, 51)] 0 0) 8,
          ByteSpec 51 (streamT 51 [(v0, 51), (v1, 51), (v2, 51), (v3, 51), (v4, 51), (v5, 51), (v6, 51), (v7, 51)] 0 0) 9,
          ByteSpec 51 (streamT 51 [(v0, 51), (v1, 51), (v2, 51), (v3, 51), (v4, 51), (v5, 51), (v6, 51), (v7, 51)] 0 0) 10,
          ByteSpec 51 (streamT 51 [(v0, 51), (v1, 51), (v2, 51), (v3, 51), (v4, 51), (v5, 51), (v6, 51), (v7, 51)] 0 0) 11,
          ByteSpec 51 (streamT 51 [(v0, 51), (v1, 51), (v2, 51), (v3, 51), (v4, 51), (v5, 51), (v6, 51), (v7, 51)] 0 0) 12,
          ByteSpec 51 (streamT 51 [(v0, 51), (v1, 51), (v2, 51), (v3, 51), (v4, 51), (v5, 51), (v6, 51), (v7, 51)] 0 0) 13,
          ByteSpec 51 (streamT 51 [(v0, 51), (v1, 51), (v2, 51), (v3, 51), (v4, 51), (v5, 51), (v6, 51), (v7, 51)] 0 0) 14,
          ByteSpec 51 (streamT 51 [(v0, 51), (v1, 51), (v2, 51), (v3, 51), (v4, 51), (v5, 51), (v6, 51), (v7, 51)] 0 0) 15,
          ByteSpec 51 (streamT 51 [(v0, 51), (v1, 51), (v2, 51), (v3, 51), (v4, 51), (v5, 51), (v6, 51), (v7, 51)] 0 0) 16,
          ByteSpec 51 (streamT 51 [(v0, 51), (v1, 51), (v2, 51), (v3, 51), (v4, 51), (v5, 51), (v6, 51), (v7, 51)] 0 0) 17,
          ByteSpec 51 (streamT 51 [(v0, 51), (v1, 51), (v2, 51), (v3, 51), (v4, 51), (v5, 51), (v6, 51), (v7, 51)] 0 0) 18,
          ByteSpec 51 (streamT 51 [(v0, 51), (v1, 51), (v2, 51), (v3, 51), (v4, 51), (v5, 51), (v6, 51), (v7, 51)] 0 0) 19,
          ByteSpec 51 (streamT 51 [(v0, 51), (v1, 51), (v2, 51), (v3, 51), (v4, 51), (v5, 51), (v6, 51), (v7, 51)] 0 0) 20,
          ByteSpec 51 (streamT 51 [(v0, 51), (v1, 51), (v2, 51), (v3, 51), (v4, 51), (v5, 51), (v6, 51), (v7, 51)] 0 0) 21,
          ByteSpec 51 (streamT 51 [(v0, 51), (v1, 51), (v2, 51), (v3, 51), (v4, 51), (v5, 51), (v6, 51), (v7, 51)] 0 0) 22,
          ByteSpec 51 (streamT 51 [(v0, 51), (v1, 51), (v2, 51), (v3, 51), (v4, 51), (v5, 51), (v6, 51), (v7, 51)] 0 0) 23,
          ByteSpec 51 (streamT 51 [(v0, 51), (v1, 51), (v2, 51), (v3, 51), (v4, 51), (v5, 51), (v6, 51), (v7, 51)] 0 0) 24,
          ByteSpec 51 (streamT 51 [(v0, 51), (v1, 51), (v2, 51), (v3, 51), (v4, 51), (v5, 51), (v6, 51), (v7, 51)] 0 0) 25,
          ByteSpec 51 (streamT 51 [(v0, 51), (v1, 51), (v2, 51), (v3, 51), (v4, 51), (v5, 51), (v6, 51), (v7, 51)] 0 0) 26,
          ByteSpec 51 (streamT 51 [(v0, 51), (v1, 51), (v2, 51), (v3, 51), (v4, 51), (v5, 51), (v6, 51), (v7, 51)] 0 0) 27,
          ByteSpec 51 (streamT 51 [(v0, 51), (v1, 51), (v2, 51), (v3, 51), (v4, 51), (v5, 51), (v6, 51), (v7, 51)] 0 0) 28,
          ByteSpec 51 (streamT 51 [(v0, 51), (v1, 51), (v2, 51), (v3, 51), (v4, 51), (v5, 51), (v6, 51), (v7, 51)] 0 0) 29,
          ByteSpec 51 (streamT 51 [(v0, 51), (v1, 51), (v2, 51), (v3, 51), (v4, 51), (v5, 51), (v6, 51), (v7, 51)] 0 0) 30,
          ByteSpec 51 (streamT 51 [(v0, 51), (v1, 51), (v2, 51), (v3, 51), (v4, 51), (v5, 51), (v6, 51), (v7, 51)] 0 0) 31,
          ByteSpec 51 (streamT 51 [(v0, 51), (v1, 51), (v2, 51), (v3, 51), (v4, 51), (v5, 51), (v6, 51), (v7, 51)] 0 0) 32,
          ByteSpec 51 (streamT 51 [(v0, 51), (v1, 51), (v2, 51), (v3, 51), (v4, 51), (v5, 51), (v6, 51), (v7, 51)] 0 0) 33,
          ByteSpec 51 (streamT 51 [(v0, 51), (v1, 51), (v2, 51), (v3, 51), (v4, 51), (v5, 51), (v6, 51), (v7, 51)] 0 0) 34,
          ByteSpec 51 (streamT 51 [(v0, 51), (v1, 51), (v2, 51), (v3, 51), (v4, 51), (v5, 51), (v6, 51), (v7, 51)] 0 0) 35,
          ByteSpec 51 (streamT 51 [(v0, 51), (v1, 51), (v2, 51), (v3, 51), (v4, 51), (v5, 51), (v6, 51), (v7, 51)] 0 0) 36,
          ByteSpec 51 (streamT 51 [(v0, 51), (v1, 51), (v2, 51), (v3, 51), (v4, 51), (v5, 51), (v6, 51), (v7, 51)] 0 0) 37,
          ByteSpec 51 (streamT 51 [(v0, 51), (v1, 51), (v2, 51), (v3, 51), (v4, 51), (v5, 51), (v6, 51), (v7, 51)] 0 0) 38,
          ByteSpec 51 (streamT 51 [(v0, 51), (v1, 51), (v2, 51), (v3, 51), (v4, 51), (v5, 51), (v6, 51), (v7, 51)] 0 0) 39,
          ByteSpec 51 (streamT 51 [(v0, 51), (v1, 51), (v2, 51), (v3, 51), (v4, 51), (v5, 51), (v6, 51), (v7, 51)] 0 0) 40,
          ByteSpec 51 (streamT 51 [(v0, 51), (v1, 51), (v2, 51), (v3, 51), (v4, 51), (v5, 51), (v6, 51), (v7, 51)] 0 0) 41,
          ByteSpec 51 (streamT 51 [(v0, 51), (v1, 51), (v2, 51), (v3, 51), (v4, 51), (v5, 51), (v6, 51), (v7, 51)] 0 0) 42,
          ByteSpec 51 (streamT 51 [(v0, 51), (v1, 51), (v2, 51), (v3, 51), (v4, 51), (v5, 51), (v6, 51), (v7, 51)] 0 0) 43,
          ByteSpec 51 (streamT 51 [(v0, 51), (v1, 51), (v2, 51), (v3, 51), (v4, 51), (v5, 51), (v6, 51), (v7, 51)] 0 0) 44,
          ByteSpec 51 (streamT 51 [(v0, 51), (v1, 51), (v2, 51), (v3, 51), (v4, 51), (v5, 51), (v6, 51), (v7, 51)] 0 0) 45,
          ByteSpec 51 (streamT 51 [(v0, 51), (v1, 51), (v2, 51), (v3, 51), (v4, 51), (v5, 51), (v6, 51), (v7, 51)] 0 0) 46,
          ByteSpec 51 (streamT 51 [(v0, 51), (v1, 51), (v2, 51), (v3, 51), (v4, 51), (v5, 51), (v6, 51), (v7, 51)] 0 0) 47,
          ByteSpec 51 (streamT 51 [(v0, 51), (v1, 51), (v2, 51), (v3, 51), (v4, 51), (v5, 51), (v6, 51), (v7, 51)] 0 0) 48,
          ByteSpec 51 (streamT 51 [(v0, 51), (v1, 51), (v2, 51), (v3, 51), (v4, 51), (v5, 51), (v6, 51), (v7, 51)] 0 0) 49,
          ByteSpec 51 (streamT 51 [(v0, 51), (v1, 51), (v2, 51), (v3, 51), (v4, 51), (v5, 51), (v6, 51), (v7, 51)] 0 0) 50 ] :=
    (list_eq_map_range_of_getD _ _ 51 hlen hbytes).trans (by rfl)
  have key2 : pack_bits_51 v0 v1 v2 v3 v4 v5 v6 v7
      = [ u8 (((v0 >>> 43) &&& 0xff)),
          u8 (((v0 >>> 35) &&& 0xff)),
          u8 (((v0 >>> 27) &&& 0xff)),
          u8 (((v0 >>> 19) &&& 0xff)),
          u8 (((v0 >>> 11) &&& 0xff)),
          u8 (((v0 >>> 3) &&& 0xff)),
          u8 (((((v0) &&& 0x7) <<< 5) ||| ((v1 >>> 46) &&& 0x1f))),
          u8 (((v1 >>> 38) &&& 0xff)),
          u8 (((v1 >>> 30) &&& 0xff)),
          u8 (((v1 >>> 22) &&& 0xff)),
          u8 (((v1 >>> 14) &&& 0xff)),
          u8 (((v1 >>> 6) &&& 0xff)),
          u8 (((((v1) &&& 0x3f) <<< 2) ||| ((v2 >>> 49) &&& 0x3))),
          u8 (((v2 >>> 41) &&& 0xff)),
          u8 (((v2 >>> 33) &&& 0xff)),
          u8 (((v2 >>> 25) &&& 0xff)),
          u8 (((v2 >>> 17) &&& 0xff)),
          u8 (((v2 >>> 9) &&& 0xff)),
          u8 (((v2 >>> 1) &&& 0xff)),
          u8 (((((v2) &&& 0x1) <<< 7) ||| ((v3 >>> 44) &&& 0x7f))),
          u8 (((v3 >>> 36) &&& 0xff)),
          u8 (((v3 >>> 28) &&& 0xff)),
          u8 (((v3 >>> 20) &&& 0xff)),
          u8 (((v3 >>> 12) &&& 0xff)),
          u8 (((v3 >>> 4) &&& 0xff)),
          u8 (((((v3) &&& 0xf) <<< 4) ||| ((v4 >>> 47) &&& 0xf))),
          u8 (((v4 >>> 39) &&& 0xff)),
          u8 (((v4 >>> 31) &&& 0xff)),
          u8 (((v4 >>> 23) &&& 0xff)),
          u8 (((v4 >>> 15) &&& 0xff)),
          u8 (((v4 >>> 7) &&& 0xff)),
          u8 (((((v4) &&& 0x7f) <<< 1) ||| ((v5 >>> 50) &&& 0x1))),
          u8 (((v5 >>> 42) &&& 0xff)),
          u8 (((v5 >>> 34) &&& 0xff)),
          u8 (((v5 >>> 26) &&& 0xff)),
          u8 (((v5 >>> 18) &&& 0xff)),
          u8 (((v5 >>> 10) &&& 0xff)),
          u8 (((v5 >>> 2) &&& 0xff)),
          u8 (((((v5) &&& 0x3) <<< 6) ||| ((v6 >>> 45) &&& 0x3f))),
          u8 (((v6 >>> 37) &&& 0xff)),
          u8 (((v6 >>> 29) &&& 0xff)),
          u8 (((v6 >>> 21) &&& 0xff)),
          u8 (((v6 >>> 13) &&& 0xff)),
          u8 (((v6 >>> 5) &&& 0xff)),
          u8 (((((v6) &&& 0x1f) <<< 3) ||| ((v7 >>> 48) &&& 0x7))),
          u8 (((v7 >>> 40) &&& 0xff)),
          u8 (((v7 >>> 32) &&& 0xff)),
          u8 (((v7 >>> 24) &&& 0xff)),
          u8 (((v7 >>> 16) &&& 0xff)),
          u8 (((v7 >>> 8) &&& 0xff)),
          u8 (((v7) &&& 0xff)) ] := rfl
  obtain ⟨A0, S0, hT0, hA0, hS0⟩ :=
    streamT_decomp 51 [(v0, 51), (v1, 51), (v2, 51), (v3, 51), (v4, 51), (v5, 51), (v6, 51), (v7, 51)] [] [(v1, 51), (v2, 51), (v3, 51), (v4, 51), (v5, 51), (v6, 51), (v7, 51)] v0 51 0 rfl rfl hvs
      (by norm_num [List.map_cons, List.map_nil, List.sum_cons, List.sum_nil])
  obtain ⟨A1, S1, hT1, hA1, hS1⟩ :=
    streamT_decomp 51 [(v0, 51), (v1, 51), (v2, 51), (v3, 51), (v4, 51), (v5, 51), (v6, 51), (v7, 51)] [(v0, 51)] [(v2, 51), (v3, 51), (v4, 51), (v5, 51), (v6, 51), (v7, 51)] v1 51 51 rfl rfl hvs
      (by norm_num [List.map_cons, List.map_nil, List.sum_cons, List.sum_nil])
  obtain ⟨A2, S2, hT2, hA2, hS2⟩ :=
    streamT_decomp 51 [(v0, 51), (v1, 51), (v2, 51), (v3, 51), (v4, 51), (v5, 51), (v6, 51), (v7, 51)] [(v0, 51), (v1, 51)] [(v3, 51), (v4, 51), (v5, 51), (v6, 51), (v7, 51)] v2 51 102 rfl rfl hvs
      (by norm_num [List.map_cons, List.map_nil, List.sum_cons, List.sum_nil])
  obtain ⟨A3, S3, hT3, hA3, hS3⟩ :=
    streamT_decomp 51 [(v0, 51), (v1, 51), (v2, 51), (v3, 51), (v4, 51), (v5, 51), (v6, 51), (v7, 51)] [(v0, 51), (v1, 51), (v2, 51)] [(v4, 51), (v5, 51), (v6, 51), (v7, 51)] v3 51 153 rfl rfl hvs
      (by norm_num [List.map_cons, List.map_nil, List.sum_cons, List.sum_nil])
  obtain ⟨A4, S4, hT4, hA4, hS4⟩ :=
    streamT_decomp 51 [(v0, 51), (v1, 51), (v2, 51), (v3, 51), (v4, 51), (v5, 51), (v6, 51), (v7, 51)] [(v0, 51), (v1, 51), (v2, 51), (v3, 51)] [(v5, 51), (v6, 51), (v7, 51)] v4 51 204 rfl rfl hvs
      (by norm_num [List.map_cons, List.map_nil, List.sum_cons, List.sum_nil])
  obtain ⟨A5, S5, hT5, hA5, hS5⟩ :=
    streamT_decomp 51 [(v0, 51), (v1, 51), (v2, 51), (v3, 51), (v4, 51), (v5, 51), (v6, 51), (v7, 51)] [(v0, 51), (v1, 51), (v2, 51), (v3, 51), (v4, 51)] [(v6, 51), (v7, 51)] v5 51 255 rfl rfl hvs
      (by norm_num [List.map_cons, List.map_nil, List.sum_cons, List.sum_nil])
  obtain ⟨A6, S6, hT6, hA6, hS6⟩ :=
    streamT_decomp 51 [(v0, 51), (v1, 51), (v2, 51), (v3, 51), (v4, 51), (v5, 51), (v6, 51), (v7, 51)] [(v0, 51), (v1, 51), (v2, 51), (v3, 51), (v4, 51), (v5, 51)] [(v7, 51)] v6 51 306 rfl rfl hvs
      (by norm_num [List.map_cons, List.map_nil, List.sum_cons, List.sum_nil])
  obtain ⟨A7, S7, hT7, hA7, hS7⟩ :=
    streamT_decomp 51 [(v0, 51), (v1, 51), (v2, 51), (v3, 51), (v4, 51), (v5, 51), (v6, 51), (v7, 51)] [(v0, 51), (v1, 51), (v2, 51), (v3, 51), (v4, 51), (v5, 51), (v6, 51)] [] v7 51 357 rfl rfl hvs
      (by norm_num [List.map_cons, List.map_nil, List.sum_cons, List.sum_nil])
  obtain ⟨B0, R0, hU0, hB0, hR0⟩ :=
    streamT_decomp2 51 [(v0, 51), (v1, 51), (v2, 51), (v3, 51), (v4, 51), (v5, 51), (v6, 51), (v7, 51)] [] [(v2, 51), (v3, 51), (v4, 51), (v5, 51), (v6, 51), (v7, 51)] v0 v1 51 51 0 rfl rfl hvs
      (by norm_num [List.map_cons, List.map_nil, List.sum_cons, List.sum_nil])
  obtain ⟨B1, R1, hU1, hB1, hR1⟩ :=
    streamT_decomp2 51 [(v0, 51), (v1, 51), (v2, 51), (v3, 51), (v4, 51), (v5, 51), (v6, 51), (v7, 51)] [(v0, 51)] [(v3, 51), (v4, 51), (v5, 51), (v6, 51), (v7, 51)] v1 v2 51 51 51 rfl rfl hvs
      (by norm_num [List.map_cons, List.map_nil, List.sum_cons, List.sum_nil])
  obtain ⟨B2, R2, hU2, hB2, hR2⟩ :=
    streamT_decomp2 51 [(v0, 51), (v1, 51), (v2, 51), (v3, 51), (v4, 51), (v5, 51), (v6, 51), (v7, 51)] [(v0, 51), (v1, 51)] [(v4, 51), (v5, 51), (v6, 51), (v7, 51)] v2 v3 51 51 102 rfl rfl hvs
      (by norm_num [List.map_cons, List.map_nil, List.sum_cons, List.sum_nil])
  obtain ⟨B3, R3, hU3, hB3, hR3⟩ :=
    streamT_decomp2 51 [(v0, 51), (v1, 51), (v2, 51), (v3, 51), (v4, 51), (v5, 51), (v6, 51), (v7, 51)] [(v0, 51), (v1, 51), (v2, 51)] [(v5, 51), (v6, 51), (v7, 51)] v3 v4 51 51 153 rfl rfl hvs
      (by norm_num [List.map_cons, List.map_nil, List.sum_cons, List.sum_nil])
  obtain ⟨B4, R4, hU4, hB4, hR4⟩ :=
    streamT_decomp2 51 [(v0, 51), (v1, 51), (v2, 51), (v3, 51), (v4, 51), (v5, 51), (v6, 51), (v7, 51)] [(v0, 51), (v1, 51), (v2, 51), (v3, 51)] [(v6, 51), (v7, 51)] v4 v5 51 51 204 rfl rfl hvs
      (by norm_num [List.map_cons, List.map_nil, List.sum_cons, List.sum_nil])
  obtain ⟨B5, R5, hU5, hB5, hR5⟩ :=
    streamT_decomp2 51 [(v0, 51), (v1, 51), (v2, 51), (v3, 51), (v4, 51), (v5, 51), (v6, 51), (v7, 51)] [(v0, 51), (v1, 51), (v2, 51), (v3, 51), (v4, 51)] [(v7, 51)] v5 v6 51 51 255 rfl rfl hvs
      (by norm_num [List.map_cons, List.map_nil, List.sum_cons, List.sum_nil])
  obtain ⟨B6, R6, hU6, hB6, hR6⟩ :=
    streamT_decomp2 51 [(v0, 51), (v1, 51), (v2, 51), (v3, 51), (v4, 51), (v5, 51), (v6, 51), (v7, 51)] [(v0, 51), (v1, 51), (v2, 51), (v3, 51), (v4, 51), (v5, 51)] [] v6 v7 51 51 306 rfl rfl hvs
      (by norm_num [List.map_cons, List.map_nil, List.sum_cons, List.sum_nil])
  rw [key, key2]
  simp only [List.cons.injEq]
  refine ⟨?_, ?_, ?_, ?_, ?_, ?_, ?_, ?_, ?_, ?_, ?_, ?_, ?_, ?_, ?_, ?_, ?_, ?_, ?_, ?_, ?_, ?_, ?_, ?_, ?_, ?_, ?_, ?_, ?_, ?_, ?_, ?_, ?_, ?_, ?_, ?_, ?_, ?_, ?_, ?_, ?_, ?_, ?_, ?_, ?_, ?_, ?_, ?_, ?_, ?_, ?_, trivial⟩
  · rw [hT0]
    exact byteSpec_mid 51 A0 v0 S0 (8 * 51 - 0 - 51) 51 0 43 hA0 hS0
      (by norm_num) (by norm_num)
  · rw [hT0]
    exact byteSpec_mid 51 A0 v0 S0 (8 * 51 - 0 - 51) 51 1 35 hA0 hS0
      (by norm_num) (by norm_num)
  · rw [hT0]
    exact byteSpec_mid 51 A0 v0 S0 (8 * 51 - 0 - 51) 51 2 27 hA0 hS0
      (by norm_num) (by norm_num)
  · rw [hT0]
    exact byteSpec_mid 51 A0 v0 S0 (8 * 51 - 0 - 51) 51 3 19 hA0 hS0
      (by norm_num) (by norm_num)
  · rw [hT0]
    exact byteSpec_mid 51 A0 v0 S0 (8 * 51 - 0 - 51) 51 4 11 hA0 hS0
      (by norm_num) (by norm_num)
  · rw [hT0]
    exact byteSpec_mid 51 A0 v0 S0 (8 * 51 - 0 - 51) 51 5 3 hA0 hS0
      (by norm_num) (by norm_num)
  · rw [hU0]
    exact byteSpec_bnd 51 B0 v0 v1 R0 (8 * 51 - 0 - 51 - 51) 6 3 5 46 7 31 51 hB0 hv0 hv1 hR0
      (by norm_num) (by norm_num) (by norm_num) (by norm_num) (by norm_num)
  · rw [hT1]
    exact byteSpec_mid 51 A1 v1 S1 (8 * 51 - 51 - 51) 51 7 38 hA1 hS1
      (by norm_num) (by norm_num)
  · rw [hT1]
    exact byteSpec_mid 51 A1 v1 S1 (8 * 51 - 51 - 51) 51 8 30 hA1 hS1
      (by norm_num) (by norm_num)
  · rw [hT1]
    exact byteSpec_mid 51 A1 v1 S1 (8 * 51 - 51 - 51) 51 9 22 hA1 hS1
      (by norm_num) (by norm_num)
  · rw [hT1]
    exact byteSpec_mid 51 A1 v1 S1 (8 * 51 - 51 - 51) 51 10 14 hA1 hS1
      (by norm_num) (by norm_num)
  · rw [hT1]
    exact byteSpec_mid 51 A1 v1 S1 (8 * 51 - 51 - 51) 51 11 6 hA1 hS1
      (by norm_num) (by norm_num)
  · rw [hU1]
    exact byteSpec_bnd 51 B1 v1 v2 R1 (8 * 51 - 51 - 51 - 51) 12 6 2 49 63 3 51 hB1 hv1 hv2 hR1
      (by norm_num) (by norm_num) (by norm_num) (by norm_num) (by norm_num)
  · rw [hT2]
    exact byteSpec_mid 51 A2 v2 S2 (8 * 51 - 102 - 51) 51 13 41 hA2 hS2
      (by norm_num) (by norm_num)
  · rw [hT2]
    exact byteSpec_mid 51 A2 v2 S2 (8 * 51 - 102 - 51) 51 14 33 hA2 hS2
      (by norm_num) (by norm_num)
  · rw [hT2]
    exact byteSpec_mid 51 A2 v2 S2 (8 * 51 - 102 - 51) 51 15 25 hA2 hS2
      (by norm_num) (by norm_num)
  · rw [hT2]
    exact byteSpec_mid 51 A2 v2 S2 (8 * 51 - 102 - 51) 51 16 17 hA2 hS2
      (by norm_num) (by norm_num)
  · rw [hT2]
    exact byteSpec_mid 51 A2 v2 S2 (8 * 51 - 102 - 51) 51 17 9 hA2 hS2
      (by norm_num) (by norm_num)
  · rw [hT2]
    exact byteSpec_mid 51 A2 v2 S2 (8 * 51 - 102 - 51) 51 18 1 hA2 hS2
      (by norm_num) (by norm_num)
  · rw [hU2]
    exact byteSpec_bnd 51 B2 v2 v3 R2 (8 * 51 - 102 - 51 - 51) 19 1 7 44 1 127 51 hB2 hv2 hv3 hR2
      (by norm_num) (by norm_num) (by norm_num) (by norm_num) (by norm_num)
  · rw [hT3]
    exact byteSpec_mid 51 A3 v3 S3 (8 * 51 - 153 - 51) 51 20 36 hA3 hS3
      (by norm_num) (by norm_num)
  · rw [hT3]
    exact byteSpec_mid 51 A3 v3 S3 (8 * 51 - 153 - 51) 51 21 28 hA3 hS3
      (by norm_num) (by norm_num)
  · rw [hT3]
    exact byteSpec_mid 51 A3 v3 S3 (8 * 51 - 153 - 51) 51 22 20 hA3 hS3
      (by norm_num) (by norm_num)
  · rw [hT3]
    exact byteSpec_mid 51 A3 v3 S3 (8 * 51 - 153 - 51) 51 23 12 hA3 hS3
      (by norm_num) (by norm_num)
  · rw [hT3]
    exact byteSpec_mid 51 A3 v3 S3 (8 * 51 - 153 - 51) 51 24 4 hA3 hS3
      (by norm_num) (by norm_num)
  · rw [hU3]
    exact byteSpec_bnd 51 B3 v3 v4 R3 (8 * 51 - 153 - 51 - 51) 25 4 4 47 15 15 51 hB3 hv3 hv4 hR3
      (by norm_num) (by norm_num) (by norm_num) (by norm_num) (by norm_num)
  · rw [hT4]
    exact byteSpec_mid 51 A4 v4 S4 (8 * 51 - 204 - 51) 51 26 39 hA4 hS4
      (by norm_num) (by norm_num)
  · rw [hT4]
    exact byteSpec_mid 51 A4 v4 S4 (8 * 51 - 204 - 51) 51 27 31 hA4 hS4
      (by norm_num) (by norm_num)
  · rw [hT4]
    exact byteSpec_mid 51 A4 v4 S4 (8 * 51 - 204 - 51) 51 28 23 hA4 hS4
      (by norm_num) (by norm_num)
  · rw [hT4]
    exact byteSpec_mid 51 A4 v4 S4 (8 * 51 - 204 - 51) 51 29 15 hA4 hS4
      (by norm_num) (by norm_num)
  · rw [hT4]
    exact byteSpec_mid 51 A4 v4 S4 (8 * 51 - 204 - 51) 51 30 7 hA4 hS4
      (by norm_num) (by norm_num)
  · rw [hU4]
    exact byteSpec_bnd 51 B4 v4 v5 R4 (8 * 51 - 204 - 51 - 51) 31 7 1 50 127 1 51 hB4 hv4 hv5 hR4
      (by norm_num) (by norm_num) (by norm_num) (by norm_num) (by norm_num)
  · rw [hT5]
    exact byteSpec_mid 51 A5 v5 S5 (8 * 51 - 255 - 51) 51 32 42 hA5 hS5
      (by norm_num) (by norm_num)
  · rw [hT5]
    exact byteSpec_mid 51 A5 v5 S5 (8 * 51 - 255 - 51) 51 33 34 hA5 hS5
      (by norm_num) (by norm_num)
  · rw [hT5]
    exact byteSpec_mid 51 A5 v5 S5 (8 * 51 - 255 - 51) 51 34 26 hA5 hS5
      (by norm_num) (by norm_num)
  · rw [hT5]
    exact byteSpec_mid 51 A5 v5 S5 (8 * 51 - 255 - 51) 51 35 18 hA5 hS5
      (by norm_num) (by norm_num)
  · rw [hT5]
    exact byteSpec_mid 51 A5 v5 S5 (8 * 51 - 255 - 51) 51 36 10 hA5 hS5
      (by norm_num) (by norm_num)
  · rw [hT5]
    exact byteSpec_mid 51 A5 v5 S5 (8 * 51 - 255 - 51) 51 37 2 hA5 hS5
      (by norm_num) (by norm_num)
  · rw [hU5]
    exact byteSpec_bnd 51 B5 v5 v6 R5 (8 * 51 - 255 - 51 - 51) 38 2 6 45 3 63 51 hB5 hv5 hv6 hR5
      (by norm_num) (by norm_num) (by norm_num) (by norm_num) (by norm_num)
  · rw [hT6]
    exact byteSpec_mid 51 A6 v6 S6 (8 * 51 - 306 - 51) 51 39 37 hA6 hS6
      (by norm_num) (by norm_num)
  · rw [hT6]
    exact byteSpec_mid 51 A6 v6 S6 (8 * 51 - 306 - 51) 51 40 29 hA6 hS6
      (by norm_num) (by norm_num)
  · rw [hT6]
    exact byteSpec_mid 51 A6 v6 S6 (8 * 51 - 306 - 51) 51 41 21 hA6 hS6
      (by norm_num) (by norm_num)
  · rw [hT6]
    exact byteSpec_mid 51 A6 v6 S6 (8 * 51 - 306 - 51) 51 42 13 hA6 hS6
      (by norm_num) (by norm_num)
  · rw [hT6]
    exact byteSpec_mid 51 A6 v6 S6 (8 * 51 - 306 - 51) 51 43 5 hA6 hS6
      (by norm_num) (by norm_num)
  · rw [hU6]
    exact byteSpec_bnd 51 B6 v6 v7 R6 (8 * 51 - 306 - 51 - 51) 44 5 3 48 31 7 51 hB6 hv6 hv7 hR6
      (by norm_num) (by norm_num) (by norm_num) (by norm_num) (by norm_num)
  · rw [hT7]
    exact byteSpec_mid 51 A7 v7 S7 (8 * 51 - 357 - 51) 51 45 40 hA7 hS7
      (by norm_num) (by norm_num)
  · rw [hT7]
    exact byteSpec_mid 51 A7 v7 S7 (8 * 51 - 357 - 51) 51 46 32 hA7 hS7
      (by norm_num) (by norm_num)
  · rw [hT7]
    exact byteSpec_mid 51 A7 v7 S7 (8 * 51 - 357 - 51) 51 47 24 hA7 hS7
      (by norm_num) (by norm_num)
  · rw [hT7]
    exact byteSpec_mid 51 A7 v7 S7 (8 * 51 - 357 - 51) 51 48 16 hA7 hS7
      (by norm_num) (by norm_num)
  · rw [hT7]
    exact byteSpec_mid 51 A7 v7 S7 (8 * 51 - 357 - 51) 51 49 8 hA7 hS7
      (by norm_num) (by norm_num)
  · rw [hT7]
    exact byteSpec_mid0 51 A7 v7 S7 (8 * 51 - 357 - 51) 51 50 hA7 hS7
      (by norm_num) (by norm_num)

set_option maxRecDepth 16000 in
set_option maxHeartbeats 1000000 in
theorem c5_pack_eq_52 (v0 v1 v2 v3 v4 v5 v6 v7 : Nat) (hv0 : v0 < 2 ^ 52) (hv1 : v1 < 2 ^ 52) (hv2 : v2 < 2 ^ 52) (hv3 : v3 < 2 ^ 52) (hv4 : v4 < 2 ^ 52) (hv5 : v5 < 2 ^ 52) (hv6 : v6 < 2 ^ 52) (hv7 : v7 < 2 ^ 52) :
    (packSeq (BitPacker.new (List.replicate 52 0)) [(v0, 52), (v1, 52), (v2, 52), (v3, 52), (v4, 52), (v5, 52), (v6, 52), (v7, 52)]).bytes
      = pack_bits_52 v0 v1 v2 v3 v4 v5 v6 v7 := by
  have hvs : ∀ p ∈ ([(v0, 52), (v1, 52), (v2, 52), (v3, 52), (v4, 52), (v5, 52), (v6, 52), (v7, 52)] : List (Nat × Nat)), p.1 < 2 ^ p.2 := by
    intro p hp
    simp only [List.mem_cons, List.not_mem_nil, or_false] at hp
    rcases hp with rfl | rfl | rfl | rfl | rfl | rfl | rfl | rfl
    exacts [hv0, hv1, hv2, hv3, hv4, hv5, hv6, hv7]
  obtain ⟨-, -, -, ⟨hlen, hbytes⟩, -, -⟩ :=
    packSeq_inv 52 [(v0, 52), (v1, 52), (v2, 52), (v3, 52), (v4, 52), (v5, 52), (v6, 52), (v7, 52)] 0 0 _ hvs
      (by norm_num [List.map_cons, List.map_nil, List.sum_cons, List.sum_nil]) (packInv_init 52)
  have key : (packSeq (BitPacker.new (List.replicate 52 0)) [(v0, 52), (v1, 52), (v2, 52), (v3, 52), (v4, 52), (v5, 52), (v6, 52), (v7, 52)]).bytes
      = [ ByteSpec 52 (streamT 52 [(v0, 52), (v1, 52), (v2, 52), (v3, 52), (v4, 52), (v5, 52), (v6, 52), (v7, 52)] 0 0) 0,
          ByteSpec 52 (streamT 52 [(v0, 52), (v1, 52), (v2, 52), (v3, 52), (v4, 52), (v5, 52), (v6, 52), (v7, 52)] 0 0) 1,
          ByteSpec 52 (streamT 52 [(v0, 52), (v1, 52), (v2, 52), (v3, 52), (v4, 52), (v5, 52), (v6, 52), (v7, 52)] 0 0) 2,
          ByteSpec 52 (streamT 52 [(v0, 52), (v1, 52), (v2, 52), (v3, 52), (v4, 52), (v5, 52), (v6, 52), (v7, 52)] 0 0) 3,
          ByteSpec 52 (streamT 52 [(v0, 52), (v1, 52), (v2, 52), (v3, 52), (v4, 52), (v5, 52), (v6, 52), (v7, 52)] 0 0) 4,
          ByteSpec 52 (streamT 52 [(v0, 52), (v1, 52), (v2, 52), (v3, 52), (v4, 52), (v5, 52), (v6, 52), (v7, 52)] 0 0) 5,
          ByteSpec 52 (streamT 52 [(v0, 52), (v1, 52), (v2, 52), (v3, 52), (v4, 52), (v5, 52), (v6, 52), (v7, 52)] 0 0) 6,
          ByteSpec 52 (streamT 52 [(v0, 52), (v1, 52), (v2, 52), (v3, 52), (v4, 52), (v5, 52), (v6, 52), (v7, 52)] 0 0) 7,
          ByteSpec 52 (streamT 52 [(v0, 52), (v1, 52), (v2, 52), (v3, 52), (v4, 52), (v5, 52), (v6, 52), (v7, 52)] 0 0) 8,
          ByteSpec 52 (streamT 52 [(v0, 52), (v1, 52), (v2, 52), (v3, 52), (v4, 52), (v5, 52), (v6, 52), (v7, 52)] 0 0) 9,
          ByteSpec 52 (streamT 52 [(v0, 52), (v1, 52), (v2, 52), (v3, 52), (v4, 52), (v5, 52), (v6, 52), (v7, 52)] 0 0) 10,
          ByteSpec 52 (streamT 52 [(v0, 52), (v1, 52), (v2, 52), (v3, 52), (v4, 52), (v5, 52), (v6, 52), (v7, 52)] 0 0) 11,
          ByteSpec 52 (streamT 52 [(v0, 52), (v1, 52), (v2, 52), (v3, 52), (v4, 52), (v5, 52), (v6, 52), (v7, 52)] 0 0) 12,
          ByteSpec 52 (streamT 52 [(v0, 52), (v1, 52), (v2, 52), (v3, 52), (v4, 52), (v5, 52), (v6, 52), (v7, 52)] 0 0) 13,
          ByteSpec 52 (streamT 52 [(v0, 52), (v1, 52), (v2, 52), (v3, 52), (v4, 52), (v5, 52), (v6, 52), (v7, 52)] 0 0) 14,
          ByteSpec 52 (streamT 52 [(v0, 52), (v1, 52), (v2, 52), (v3, 52), (v4, 52), (v5, 52), (v6, 52), (v7, 52)] 0 0) 15,
          ByteSpec 52 (streamT 52 [(v0, 52), (v1, 52), (v2, 52), (v3, 52), (v4, 52), (v5, 52), (v6, 52), (v7, 52)] 0 0) 16,
          ByteSpec 52 (streamT 52 [(v0, 52), (v1, 52), (v2, 52), (v3, 52), (v4, 52), (v5, 52), (v6, 52), (v7, 52)] 0 0) 17,
          ByteSpec 52 (streamT 52 [(v0, 52), (v1, 52), (v2, 52), (v3, 52), (v4, 52), (v5, 52), (v6, 52), (v7, 52)] 0 0) 18,
          ByteSpec 52 (streamT 52 [(v0, 52), (v1, 52), (v2, 52), (v3, 52), (v4, 52), (v5, 52), (v6, 52), (v7, 52)] 0 0) 19,
          ByteSpec 52 (streamT 52 [(v0, 52), (v1, 52), (v2, 52), (v3, 52), (v4, 52), (v5, 52), (v6, 52), (v7, 52)] 0 0) 20,
          ByteSpec 52 (streamT 52 [(v0, 52), (v1, 52), (v2, 52), (v3, 52), (v4, 52), (v5, 52), (v6, 52), (v7, 52)] 0 0) 21,
          ByteSpec 52 (streamT 52 [(v0, 52), (v1, 52), (v2, 52), (v3, 52), (v4, 52), (v5, 52), (v6, 52), (v7, 52)] 0 0) 22,
          ByteSpec 52 (streamT 52 [(v0, 52), (v1, 52), (v2, 52), (v3, 52), (v4, 52), (v5, 52), (v6, 52), (v7, 52)] 0 0) 23,
          ByteSpec 52 (streamT 52 [(v0, 52), (v1, 52), (v2, 52), (v3, 52), (v4, 52), (v5, 52), (v6, 52), (v7, 52)] 0 0) 24,
          ByteSpec 52 (streamT 52 [(v0, 52), (v1, 52), (v2, 52), (v3, 52), (v4, 52), (v5, 52), (v6, 52), (v7, 52)] 0 0) 25,
          ByteSpec 52 (streamT 52 [(v0, 52), (v1, 52), (v2, 52), (v3, 52), (v4, 52), (v5, 52), (v6, 52), (v7, 52)] 0 0) 26,
          ByteSpec 52 (streamT 52 [(v0, 52), (v1, 52), (v2, 52), (v3, 52), (v4, 52), (v5, 52), (v6, 52), (v7, 52)] 0 0) 27,
          ByteSpec 52 (streamT 52 [(v0, 52), (v1, 52), (v2, 52), (v3, 52), (v4, 52), (v5, 52), (v6, 52), (v7, 52)] 0 0) 28,
          ByteSpec 52 (streamT 52 [(v0, 52), (v1, 52), (v2, 52), (v3, 52), (v4, 52), (v5, 52), (v6, 52), (v7, 52)] 0 0) 29,
          ByteSpec 52 (streamT 52 [(v0, 52), (v1, 52), (v2, 52), (v3, 52), (v4, 52), (v5, 52), (v6, 52), (v7, 52)] 0 0) 30,
          ByteSpec 52 (streamT 52 [(v0, 52), (v1, 52), (v2, 52), (v3, 52), (v4, 52), (v5, 52), (v6, 52), (v7, 52)] 0 0) 31,
          ByteSpec 52 (streamT 52 [(v0, 52), (v1, 52), (v2, 52), (v3, 52), (v4, 52), (v5, 52), (v6, 52), (v7, 52)] 0 0) 32,
          ByteSpec 52 (streamT 52 [(v0, 52), (v1, 52), (v2, 52), (v3, 52), (v4, 52), (v5, 52), (v6, 52), (v7, 52)] 0 0) 33,
          ByteSpec 52 (streamT 52 [(v0, 52), (v1, 52), (v2, 52), (v3, 52), (v4, 52), (v5, 52), (v6, 52), (v7, 52)] 0 0) 34,
          ByteSpec 52 (streamT 52 [(v0, 52), (v1, 52), (v2, 52), (v3, 52), (v4, 52), (v5, 52), (v6, 52), (v7, 52)] 0 0) 35,
          ByteSpec 52 (streamT 52 [(v0, 52), (v1, 52), (v2, 52), (v3, 52), (v4, 52), (v5, 52), (v6, 52), (v7, 52)] 0 0) 36,
          ByteSpec 52 (streamT 52 [(v0, 52), (v1, 52), (v2, 52), (v3, 52), (v4, 52), (v5, 52), (v6, 52), (v7, 52)] 0 0) 37,
          ByteSpec 52 (streamT 52 [(v0, 52), (v1, 52), (v2, 52), (v3, 52), (v4, 52), (v5, 52), (v6, 52), (v7, 52)] 0 0) 38,
          ByteSpec 52 (streamT 52 [(v0, 52), (v1, 52), (v2, 52), (v3, 52), (v4, 52), (v5, 52), (v6, 52), (v7, 52)] 0 0) 39,
          ByteSpec 52 (streamT 52 [(v0, 52), (v1, 52), (v2, 52), (v3, 52), (v4, 52), (v5, 52), (v6, 52), (v7, 52)] 0 0) 40,
          ByteSpec 52 (streamT 52 [(v0, 52), (v1, 52), (v2, 52), (v3, 52), (v4, 52), (v5, 52), (v6, 52), (v7, 52)] 0 0) 41,
          ByteSpec 52 (streamT 52 [(v0, 52), (v1, 52), (v2, 52), (v3, 52), (v4, 52), (v5, 52), (v6, 52), (v7, 52)] 0 0) 42,
          ByteSpec 52 (streamT 52 [(v0, 52), (v1, 52), (v2, 52), (v3, 52), (v4, 52), (v5, 52), (v6, 52), (v7, 52)] 0 0) 43,
          ByteSpec 52 (streamT 52 [(v0, 52), (v1, 52), (v2, 52), (v3, 52), (v4, 52), (v5, 52), (v6, 52), (v7, 52)] 0 0) 44,
          ByteSpec 52 (streamT 52 [(v0, 52), (v1, 52), (v2, 52), (v3, 52), (v4, 52), (v5, 52), (v6, 52), (v7, 52)] 0 0) 45,
          ByteSpec 52 (streamT 52 [(v0, 52), (v1, 52), (v2, 52), (v3, 52), (v4, 52), (v5, 52), (v6, 52), (v7, 52)] 0 0) 46,
          ByteSpec 52 (streamT 52 [(v0, 52), (v1, 52), (v2, 52), (v3, 52), (v4, 52), (v5, 52), (v6, 52), (v7, 52)] 0 0) 47,
          ByteSpec 52 (streamT 52 [(v0, 52), (v1, 52), (v2, 52), (v3, 52), (v4, 52), (v5, 52), (v6, 52), (v7, 52)] 0 0) 48,
          ByteSpec 52 (streamT 52 [(v0, 52), (v1, 52), (v2, 52), (v3, 52), (v4, 52), (v5, 52), (v6, 52), (v7, 52)] 0 0) 49,
          ByteSpec 52 (streamT 52 [(v0, 52), (v1, 52), (v2, 52), (v3, 52), (v4, 52), (v5, 52), (v6, 52), (v7, 52)] 0 0) 50,
          ByteSpec 52 (streamT 52 [(v0, 52), (v1, 52), (v2, 52), (v3, 52), (v4, 52), (v5, 52), (v6, 52), (v7, 52)] 0 0) 51 ] :=
    (list_eq_map_range_of_getD _ _ 52 hlen hbytes).trans (by rfl)
  have key2 : pack_bits_52 v0 v1 v2 v3 v4 v5 v6 v7
      = [ u8 (((v0 >>> 44) &&& 0xff)),
          u8 (((v0 >>> 36) &&& 0xff)),
          u8 (((v0 >>> 28) &&& 0xff)),
          u8 (((v0 >>> 20) &&& 0xff)),
          u8 (((v0 >>> 12) &&& 0xff)),
          u8 (((v0 >>> 4) &&& 0xff)),
          u8 (((((v0) &&& 0xf) <<< 4) ||| ((v1 >>> 48) &&& 0xf))),
          u8 (((v1 >>> 40) &&& 0xff)),
          u8 (((v1 >>> 32) &&& 0xff)),
          u8 (((v1 >>> 24) &&& 0xff)),
          u8 (((v1 >>> 16) &&& 0xff)),
          u8 (((v1 >>> 8) &&& 0xff)),
          u8 (((v1) &&& 0xff)),
          u8 (((v2 >>> 44) &&& 0xff)),
          u8 (((v2 >>> 36) &&& 0xff)),
          u8 (((v2 >>> 28) &&& 0xff)),
          u8 (((v2 >>> 20) &&& 0xff)),
          u8 (((v2 >>> 12) &&& 0xff)),
          u8 (((v2 >>> 4) &&& 0xff)),
          u8 (((((v2) &&& 0xf) <<< 4) ||| ((v3 >>> 48) &&& 0xf))),
          u8 (((v3 >>> 40) &&& 0xff)),
          u8 (((v3 >>> 32) &&& 0xff)),
          u8 (((v3 >>> 24) &&& 0xff)),
          u8 (((v3 >>> 16) &&& 0xff)),
          u8 (((v3 >>> 8) &&& 0xff)),
          u8 (((v3) &&& 0xff)),
          u8 (((v4 >>> 44) &&& 0xff)),
          u8 (((v4 >>> 36) &&& 0xff)),
          u8 (((v4 >>> 28) &&& 0xff)),
          u8 (((v4 >>> 20) &&& 0xff)),
          u8 (((v4 >>> 12) &&& 0xff)),
          u8 (((v4 >>> 4) &&& 0xff)),
          u8 (((((v4) &&& 0xf) <<< 4) ||| ((v5 >>> 48) &&& 0xf))),
          u8 (((v5 >>> 40) &&& 0xff)),
          u8 (((v5 >>> 32) &&& 0xff)),
          u8 (((v5 >>> 24) &&& 0xff)),
          u8 (((v5 >>> 16) &&& 0xff)),
          u8 (((v5 >>> 8) &&& 0xff)),
          u8 (((v5) &&& 0xff)),
          u8 (((v6 >>> 44) &&& 0xff)),
          u8 (((v6 >>> 36) &&& 0xff)),
          u8 (((v6 >>> 28) &&& 0xff)),
          u8 (((v6 >>> 20) &&& 0xff)),
          u8 (((v6 >>> 12) &&& 0xff)),
          u8 (((v6 >>> 4) &&& 0xff)),
          u8 (((((v6) &&& 0xf) <<< 4) ||| ((v7 >>> 48) &&& 0xf))),
          u8 (((v7 >>> 40) &&& 0xff)),
          u8 (((v7 >>> 32) &&& 0xff)),
          u8 (((v7 >>> 24) &&& 0xff)),
          u8 (((v7 >>> 16) &&& 0xff)),
          u8 (((v7 >>> 8) &&& 0xff)),
          u8 (((v7) &&& 0xff)) ] := rfl
  obtain ⟨A0, S0, hT0, hA0, hS0⟩ :=
    streamT_decomp 52 [(v0, 52), (v1, 52), (v2, 52), (v3, 52), (v4, 52), (v5, 52), (v6, 52), (v7, 52)] [] [(v1, 52), (v2, 52), (v3, 52), (v4, 52), (v5, 52), (v6, 52), (v7, 52)] v0 52 0 rfl rfl hvs
      (by norm_num [List.map_cons, List.map_nil, List.sum_cons, List.sum_nil])
  obtain ⟨A1, S1, hT1, hA1, hS1⟩ :=
    streamT_decomp 52 [(v0, 52), (v1, 52), (v2, 52), (v3, 52), (v4, 52), (v5, 52), (v6, 52), (v7, 52)] [(v0, 52)] [(v2, 52), (v3, 52), (v4, 52), (v5, 52), (v6, 52), (v7, 52)] v1 52 52 rfl rfl hvs
      (by norm_num [List.map_cons, List.map_nil, List.sum_cons, List.sum_nil])
  obtain ⟨A2, S2, hT2, hA2, hS2⟩ :=
    streamT_decomp 52 [(v0, 52), (v1, 52), (v2, 52), (v3, 52), (v4, 52), (v5, 52), (v6, 52), (v7, 52)] [(v0, 52), (v1, 52)] [(v3, 52), (v4, 52), (v5, 52), (v6, 52), (v7, 52)] v2 52 104 rfl rfl hvs
      (by norm_num [List.map_cons, List.map_nil, List.sum_cons, List.sum_nil])
  obtain ⟨A3, S3, hT3, hA3, hS3⟩ :=
    streamT_decomp 52 [(v0, 52), (v1, 52), (v2, 52), (v3, 52), (v4, 52), (v5, 52), (v6, 52), (v7, 52)] [(v0, 52), (v1, 52), (v2, 52)] [(v4, 52), (v5, 52), (v6, 52), (v7, 52)] v3 52 156 rfl rfl hvs
      (by norm_num [List.map_cons, List.map_nil, List.sum_cons, List.sum_nil])
  obtain ⟨A4, S4, hT4, hA4, hS4⟩ :=
    streamT_decomp 52 [(v0, 52), (v1, 52), (v2, 52), (v3, 52), (v4, 52), (v5, 52), (v6, 52), (v7, 52)] [(v0, 52), (v1, 52), (v2, 52), (v3, 52)] [(v5, 52), (v6, 52), (v7, 52)] v4 52 208 rfl rfl hvs
      (by norm_num [List.map_cons, List.map_nil, List.sum_cons, List.sum_nil])
  obtain ⟨A5, S5, hT5, hA5, hS5⟩ :=
    streamT_decomp 52 [(v0, 52), (v1, 52), (v2, 52), (v3, 52), (v4, 52), (v5, 52), (v6, 52), (v7, 52)] [(v0, 52), (v1, 52), (v2, 52), (v3, 52), (v4, 52)] [(v6, 52), (v7, 52)] v5 52 260 rfl rfl hvs
      (by norm_num [List.map_cons, List.map_nil, List.sum_cons, List.sum_nil])
  obtain ⟨A6, S6, hT6, hA6, hS6⟩ :=
    streamT_decomp 52 [(v0, 52), (v1, 52), (v2, 52), (v3, 52), (v4, 52), (v5, 52), (v6, 52), (v7, 52)] [(v0, 52), (v1, 52), (v2, 52), (v3, 52), (v4, 52), (v5, 52)] [(v7, 52)] v6 52 312 rfl rfl hvs
      (by norm_num [List.map_cons, List.map_nil, List.sum_cons, List.sum_nil])
  obtain ⟨A7, S7, hT7, hA7, hS7⟩ :=
    streamT_decomp 52 [(v0, 52), (v1, 52), (v2, 52), (v3, 52), (v4, 52), (v5, 52), (v6, 52), (v7, 52)] [(v0, 52), (v1, 52), (v2, 52), (v3, 52), (v4, 52), (v5, 52), (v6, 52)] [] v7 52 364 rfl rfl hvs
      (by norm_num [List.map_cons, List.map_nil, List.sum_cons, List.sum_nil])
  obtain ⟨B0, R0, hU0, hB0, hR0⟩ :=
    streamT_decomp2 52 [(v0, 52), (v1, 52), (v2, 52), (v3, 52), (v4, 52), (v5, 52), (v6, 52), (v7, 52)] [] [(v2, 52), (v3, 52), (v4, 52), (v5, 52), (v6, 52), (v7, 52)] v0 v1 52 52 0 rfl rfl hvs
      (by norm_num [List.map_cons, List.map_nil, List.sum_cons, List.sum_nil])
  obtain ⟨B2, R2, hU2, hB2, hR2⟩ :=
    streamT_decomp2 52 [(v0, 52), (v1, 52), (v2, 52), (v3, 52), (v4, 52), (v5, 52), (v6, 52), (v7, 52)] [(v0, 52), (v1, 52)] [(v4, 52), (v5, 52), (v6, 52), (v7, 52)] v2 v3 52 52 104 rfl rfl hvs
      (by norm_num [List.map_cons, List.map_nil, List.sum_cons, List.sum_nil])
  obtain ⟨B4, R4, hU4, hB4, hR4⟩ :=
    streamT_decomp2 52 [(v0, 52), (v1, 52), (v2, 52), (v3, 52), (v4, 52), (v5, 52), (v6, 52), (v7, 52)] [(v0, 52), (v1, 52), (v2, 52), (v3, 52)] [(v6, 52), (v7, 52)] v4 v5 52 52 208 rfl rfl hvs
      (by norm_num [List.map_cons, List.map_nil, List.sum_cons, List.sum_nil])
  obtain ⟨B6, R6, hU6, hB6, hR6⟩ :=
    streamT_decomp2 52 [(v0, 52), (v1, 52), (v2, 52), (v3, 52), (v4, 52), (v5, 52), (v6, 52), (v7, 52)] [(v0, 52), (v1, 52), (v2, 52), (v3, 52), (v4, 52), (v5, 52)] [] v6 v7 52 52 312 rfl rfl hvs
      (by norm_num [List.map_cons, List.map_nil, List.sum_cons, List.sum_nil])
  rw [key, key2]
  simp only [List.cons.injEq]
  refine ⟨?_, ?_, ?_, ?_, ?_, ?_, ?_, ?_, ?_, ?_, ?_, ?_, ?_, ?_, ?_, ?_, ?_, ?_, ?_, ?_, ?_, ?_, ?_, ?_, ?_, ?_, ?_, ?_, ?_, ?_, ?_, ?_, ?_, ?_, ?_, ?_, ?_, ?_, ?_, ?_, ?_, ?_, ?_, ?_, ?_, ?_, ?_, ?_, ?_, ?_, ?_, ?_, trivial⟩
  · rw [hT0]
    exact byteSpec_mid 52 A0 v0 S0 (8 * 52 - 0 - 52) 52 0 44 hA0 hS0
      (by norm_num) (by norm_num)
  · rw [hT0]
    exact byteSpec_mid 52 A0 v0 S0 (8 * 52 - 0 - 52) 52 1 36 hA0 hS0
      (by norm_num) (by norm_num)
  · rw [hT0]
    exact byteSpec_mid 52 A0 v0 S0 (8 * 52 - 0 - 52) 52 2 28 hA0 hS0
      (by norm_num) (by norm_num)
  · rw [hT0]
    exact byteSpec_mid 52 A0 v0 S0 (8 * 52 - 0 - 52) 52 3 20 hA0 hS0
      (by norm_num) (by norm_num)
  · rw [hT0]
    exact byteSpec_mid 52 A0 v0 S0 (8 * 52 - 0 - 52) 52 4 12 hA0 hS0
      (by norm_num) (by norm_num)
  · rw [hT0]
    exact byteSpec_mid 52 A0 v0 S0 (8 * 52 - 0 - 52) 52 5 4 hA0 hS0
      (by norm_num) (by norm_num)
  · rw [hU0]
    exact byteSpec_bnd 52 B0 v0 v1 R0 (8 * 52 - 0 - 52 - 52) 6 4 4 48 15 15 52 hB0 hv0 hv1 hR0
      (by norm_num) (by norm_num) (by norm_num) (by norm_num) (by norm_num)
  · rw [hT1]
    exact byteSpec_mid 52 A1 v1 S1 (8 * 52 - 52 - 52) 52 7 40 hA1 hS1
      (by norm_num) (by norm_num)
  · rw [hT1]
    exact byteSpec_mid 52 A1 v1 S1 (8 * 52 - 52 - 52) 52 8 32 hA1 hS1
      (by norm_num) (by norm_num)
  · rw [hT1]
    exact byteSpec_mid 52 A1 v1 S1 (8 * 52 - 52 - 52) 52 9 24 hA1 hS1
      (by norm_num) (by norm_num)
  · rw [hT1]
    exact byteSpec_mid 52 A1 v1 S1 (8 * 52 - 52 - 52) 52 10 16 hA1 hS1
      (by norm_num) (by norm_num)
  · rw [hT1]
    exact byteSpec_mid 52 A1 v1 S1 (8 * 52 - 52 - 52) 52 11 8 hA1 hS1
      (by norm_num) (by norm_num)
  · rw [hT1]
    exact byteSpec_mid0 52 A1 v1 S1 (8 * 52 - 52 - 52) 52 12 hA1 hS1
      (by norm_num) (by norm_num)
  · rw [hT2]
    exact byteSpec_mid 52 A2 v2 S2 (8 * 52 - 104 - 52) 52 13 44 hA2 hS2
      (by norm_num) (by norm_num)
  · rw [hT2]
    exact byteSpec_mid 52 A2 v2 S2 (8 * 52 - 104 - 52) 52 14 36 hA2 hS2
      (by norm_num) (by norm_num)
  · rw [hT2]
    exact byteSpec_mid 52 A2 v2 S2 (8 * 52 - 104 - 52) 52 15 28 hA2 hS2
      (by norm_num) (by norm_num)
  · rw [hT2]
    exact byteSpec_mid 52 A2 v2 S2 (8 * 52 - 104 - 52) 52 16 20 hA2 hS2
      (by norm_num) (by norm_num)
  · rw [hT2]
    exact byteSpec_mid 52 A2 v2 S2 (8 * 52 - 104 - 52) 52 17 12 hA2 hS2
      (by norm_num) (by norm_num)
  · rw [hT2]
    exact byteSpec_mid 52 A2 v2 S2 (8 * 52 - 104 - 52) 52 18 4 hA2 hS2
      (by norm_num) (by norm_num)
  · rw [hU2]
    exact byteSpec_bnd 52 B2 v2 v3 R2 (8 * 52 - 104 - 52 - 52) 19 4 4 48 15 15 52 hB2 hv2 hv3 hR2
      (by norm_num) (by norm_num) (by norm_num) (by norm_num) (by norm_num)
  · rw [hT3]
    exact byteSpec_mid 52 A3 v3 S3 (8 * 52 - 156 - 52) 52 20 40 hA3 hS3
      (by norm_num) (by norm_num)
  · rw [hT3]
    exact byteSpec_mid 52 A3 v3 S3 (8 * 52 - 156 - 52) 52 21 32 hA3 hS3
      (by norm_num) (by norm_num)
  · rw [hT3]
    exact byteSpec_mid 52 A3 v3 S3 (8 * 52 - 156 - 52) 52 22 24 hA3 hS3
      (by norm_num) (by norm_num)
  · rw [hT3]
    exact byteSpec_mid 52 A3 v3 S3 (8 * 52 - 156 - 52) 52 23 16 hA3 hS3
      (by norm_num) (by norm_num)
  · rw [hT3]
    exact byteSpec_mid 52 A3 v3 S3 (8 * 52 - 156 - 52) 52 24 8 hA3 hS3
      (by norm_num) (by norm_num)
  · rw [hT3]
    exact byteSpec_mid0 52 A3 v3 S3 (8 * 52 - 156 - 52) 52 25 hA3 hS3
      (by norm_num) (by norm_num)
  · rw [hT4]
    exact byteSpec_mid 52 A4 v4 S4 (8 * 52 - 208 - 52) 52 26 44 hA4 hS4
      (by norm_num) (by norm_num)
  · rw [hT4]
    exact byteSpec_mid 52 A4 v4 S4 (8 * 52 - 208 - 52) 52 27 36 hA4 hS4
      (by norm_num) (by norm_num)
  · rw [hT4]
    exact byteSpec_mid 52 A4 v4 S4 (8 * 52 - 208 - 52) 52 28 28 hA4 hS4
      (by norm_num) (by norm_num)
  · rw [hT4]
    exact byteSpec_mid 52 A4 v4 S4 (8 * 52 - 208 - 52) 52 29 20 hA4 hS4
      (by norm_num) (by norm_num)
  · rw [hT4]
    exact byteSpec_mid 52 A4 v4 S4 (8 * 52 - 208 - 52) 52 30 12 hA4 hS4
      (by norm_num) (by norm_num)
  · rw [hT4]
    exact byteSpec_mid 52 A4 v4 S4 (8 * 52 - 208 - 52) 52 31 4 hA4 hS4
      (by norm_num) (by norm_num)
  · rw [hU4]
    exact byteSpec_bnd 52 B4 v4 v5 R4 (8 * 52 - 208 - 52 - 52) 32 4 4 48 15 15 52 hB4 hv4 hv5 hR4
      (by norm_num) (by norm_num) (by norm_num) (by norm_num) (by norm_num)
  · rw [hT5]
    exact byteSpec_mid 52 A5 v5 S5 (8 * 52 - 260 - 52) 52 33 40 hA5 hS5
      (by norm_num) (by norm_num)
  · rw [hT5]
    exact byteSpec_mid 52 A5 v5 S5 (8 * 52 - 260 - 52) 52 34 32 hA5 hS5
      (by norm_num) (by norm_num)
  · rw [hT5]
    exact byteSpec_mid 52 A5 v5 S5 (8 * 52 - 260 - 52) 52 35 24 hA5 hS5
      (by norm_num) (by norm_num)
  · rw [hT5]
    exact byteSpec_mid 52 A5 v5 S5 (8 * 52 - 260 - 52) 52 36 16 hA5 hS5
      (by norm_num) (by norm_num)
  · rw [hT5]
    exact byteSpec_mid 52 A5 v5 S5 (8 * 52 - 260 - 52) 52 37 8 hA5 hS5
      (by norm_num) (by norm_num)
  · rw [hT5]
    exact byteSpec_mid0 52 A5 v5 S5 (8 * 52 - 260 - 52) 52 38 hA5 hS5
      (by norm_num) (by norm_num)
  · rw [hT6]
    exact byteSpec_mid 52 A6 v6 S6 (8 * 52 - 312 - 52) 52 39 44 hA6 hS6
      (by norm_num) (by norm_num)
  · rw [hT6]
    exact byteSpec_mid 52 A6 v6 S6 (8 * 52 - 312 - 52) 52 40 36 hA6 hS6
      (by norm_num) (by norm_num)
  · rw [hT6]
    exact byteSpec_mid 52 A6 v6 S6 (8 * 52 - 312 - 52) 52 41 28 hA6 hS6
      (by norm_num) (by norm_num)
  · rw [hT6]
    exact byteSpec_mid 52 A6 v6 S6 (8 * 52 - 312 - 52) 52 42 20 hA6 hS6
      (by norm_num) (by norm_num)
  · rw [hT6]
    exact byteSpec_mid 52 A6 v6 S6 (8 * 52 - 312 - 52) 52 43 12 hA6 hS6
      (by norm_num) (by norm_num)
  · rw [hT6]
    exact byteSpec_mid 52 A6 v6 S6 (8 * 52 - 312 - 52) 52 44 4 hA6 hS6
      (by norm_num) (by norm_num)
  · rw [hU6]
    exact byteSpec_bnd 52 B6 v6 v7 R6 (8 * 52 - 312 - 52 - 52) 45 4 4 48 15 15 52 hB6 hv6 hv7 hR6
      (by norm_num) (by norm_num) (by norm_num) (by norm_num) (by norm_num)
  · rw [hT7]
    exact byteSpec_mid 52 A7 v7 S7 (8 * 52 - 364 - 52) 52 46 40 hA7 hS7
      (by norm_num) (by norm_num)
  · rw [hT7]
    exact byteSpec_mid 52 A7 v7 S7 (8 * 52 - 364 - 52) 52 47 32 hA7 hS7
      (by norm_num) (by norm_num)
  · rw [hT7]
    exact byteSpec_mid 52 A7 v7 S7 (8 * 52 - 364 - 52) 52 48 24 hA7 hS7
      (by norm_num) (by norm_num)
  · rw [hT7]
    exact byteSpec_mid 52 A7 v7 S7 (8 * 52 - 364 - 52) 52 49 16 hA7 hS7
      (by norm_num) (by norm_num)
  · rw [hT7]
    exact byteSpec_mid 52 A7 v7 S7 (8 * 52 - 364 - 52) 52 50 8 hA7 hS7
      (by norm_num) (by norm_num)
  · rw [hT7]
    exact byteSpec_mid0 52 A7 v7 S7 (8 * 52 - 364 - 52) 52 51 hA7 hS7
      (by norm_num) (by norm_num)

set_option maxRecDepth 16000 in
set_option maxHeartbeats 1000000 in
theorem c5_pack_eq_53 (v0 v1 v2 v3 v4 v5 v6 v7 : Nat) (hv0 : v0 < 2 ^ 53) (hv1 : v1 < 2 ^ 53) (hv2 : v2 < 2 ^ 53) (hv3 : v3 < 2 ^ 53) (hv4 : v4 < 2 ^ 53) (hv5 : v5 < 2 ^ 53) (hv6 : v6 < 2 ^ 53) (hv7 : v7 < 2 ^ 53) :
    (packSeq (BitPacker.new (List.replicate 53 0)) [(v0, 53), (v1, 53), (v2, 53), (v3, 53), (v4, 53), (v5, 53), (v6, 53), (v7, 53)]).bytes
      = pack_bits_53 v0 v1 v2 v3 v4 v5 v6 v7 := by
  have hvs : ∀ p ∈ ([(v0, 53), (v1, 53), (v2, 53), (v3, 53), (v4, 53), (v5, 53), (v6, 53), (v7, 53)] : List (Nat × Nat)), p.1 < 2 ^ p.2 := by
    intro p hp
    simp only [List.mem_cons, List.not_mem_nil, or_false] at hp
    rcases hp with rfl | rfl | rfl | rfl | rfl | rfl | rfl | rfl
    exacts [hv0, hv1, hv2, hv3, hv4, hv5, hv6, hv7]
  obtain ⟨-, -, -, ⟨hlen, hbytes⟩, -, -⟩ :=
    packSeq_inv 53 [(v0, 53), (v1, 53), (v2, 53), (v3, 53), (v4, 53), (v5, 53), (v6, 53), (v7, 53)] 0 0 _ hvs
      (by norm_num [List.map_cons, List.map_nil, List.sum_cons, List.sum_nil]) (packInv_init 53)
  have key : (packSeq (BitPacker.new (List.replicate 53 0)) [(v0, 53), (v1, 53), (v2, 53), (v3, 53), (v4, 53), (v5, 53), (v6, 53), (v7, 53)]).bytes
      = [ ByteSpec 53 (streamT 53 [(v0, 53), (v1, 53), (v2, 53), (v3, 53), (v4, 53), (v5, 53), (v6, 53), (v7, 53)] 0 0) 0,
          ByteSpec 53 (streamT 53 [(v0, 53), (v1, 53), (v2, 53), (v3, 53), (v4, 53), (v5, 53), (v6, 53), (v7, 53)] 0 0) 1,
          ByteSpec 53 (streamT 53 [(v0, 53), (v1, 53), (v2, 53), (v3, 53), (v4, 53), (v5, 53), (v6, 53), (v7, 53)] 0 0) 2,
          ByteSpec 53 (streamT 53 [(v0, 53), (v1, 53), (v2, 53), (v3, 53), (v4, 53), (v5, 53), (v6, 53), (v7, 53)] 0 0) 3,
          ByteSpec 53 (streamT 53 [(v0, 53), (v1, 53), (v2, 53), (v3, 53), (v4, 53), (v5, 53), (v6, 53), (v7, 53)] 0 0) 4,
          ByteSpec 53 (streamT 53 [(v0, 53), (v1, 53), (v2, 53), (v3, 53), (v4, 53), (v5, 53), (v6, 53), (v7, 53)] 0 0) 5,
          ByteSpec 53 (streamT 53 [(v0, 53), (v1, 53), (v2, 53), (v3, 53), (v4, 53), (v5, 53), (v6, 53), (v7, 53)] 0 0) 6,
          ByteSpec 53 (streamT 53 [(v0, 53), (v1, 53), (v2, 53), (v3, 53), (v4, 53), (v5, 53), (v6, 53), (v7, 53)] 0 0) 7,
          ByteSpec 53 (streamT 53 [(v0, 53), (v1, 53), (v2, 53), (v3, 53), (v4, 53), (v5, 53), (v6, 53), (v7, 53)] 0 0) 8,
          ByteSpec 53 (streamT 53 [(v0, 53), (v1, 53), (v2, 53), (v3, 53), (v4, 53), (v5, 53), (v6, 53), (v7, 53)] 0 0) 9,
          ByteSpec 53 (streamT 53 [(v0, 53), (v1, 53), (v2, 53), (v3, 53), (v4, 53), (v5, 53), (v6, 53), (v7, 53)] 0 0) 10,
          ByteSpec 53 (streamT 53 [(v0, 53), (v1, 53), (v2, 53), (v3, 53), (v4, 53), (v5, 53), (v6, 53), (v7, 53)] 0 0) 11,
          ByteSpec 53 (streamT 53 [(v0, 53), (v1, 53), (v2, 53), (v3, 53), (v4, 53), (v5, 53), (v6, 53), (v7, 53)] 0 0) 12,
          ByteSpec 53 (streamT 53 [(v0, 53), (v1, 53), (v2, 53), (v3, 53), (v4, 53), (v5, 53), (v6, 53), (v7, 53)] 0 0) 13,
          ByteSpec 53 (streamT 53 [(v0, 53), (v1, 53), (v2, 53), (v3, 53), (v4, 53), (v5, 53), (v6, 53), (v7, 53)] 0 0) 14,
          ByteSpec 53 (streamT 53 [(v0, 53), (v1, 53), (v2, 53), (v3, 53), (v4, 53), (v5, 53), (v6, 53), (v7, 53)] 0 0) 15,
          ByteSpec 53 (streamT 53 [(v0, 53), (v1, 53), (v2, 53), (v3, 53), (v4, 53), (v5, 53), (v6, 53), (v7, 53)] 0 0) 16,
          ByteSpec 53 (streamT 53 [(v0, 53), (v1, 53), (v2, 53), (v3, 53), (v4, 53), (v5, 53), (v6, 53), (v7, 53)] 0 0) 17,
          ByteSpec 53 (streamT 53 [(v0, 53), (v1, 53), (v2, 53), (v3, 53), (v4, 53), (v5, 53), (v6, 53), (v7, 53)] 0 0) 18,
          ByteSpec 53 (streamT 53 [(v0, 53), (v1, 53), (v2, 53), (v3, 53), (v4, 53), (v5, 53), (v6, 53), (v7, 53)] 0 0) 19,
          ByteSpec 53 (streamT 53 [(v0, 53), (v1, 53), (v2, 53), (v3, 53), (v4, 53), (v5, 53), (v6, 53), (v7, 53)] 0 0) 20,
          ByteSpec 53 (streamT 53 [(v0, 53), (v1, 53), (v2, 53), (v3, 53), (v4, 53), (v5, 53), (v6, 53), (v7, 53)] 0 0) 21,
          ByteSpec 53 (streamT 53 [(v0, 53), (v1, 53), (v2, 53), (v3, 53), (v4, 53), (v5, 53), (v6, 53), (v7, 53)] 0 0) 22,
          ByteSpec 53 (streamT 53 [(v0, 53), (v1, 53), (v2, 53), (v3, 53), (v4, 53), (v5, 53), (v6, 53), (v7, 53)] 0 0) 23,
          ByteSpec 53 (streamT 53 [(v0, 53), (v1, 53), (v2, 53), (v3, 53), (v4, 53), (v5, 53), (v6, 53), (v7, 53)] 0 0) 24,
          ByteSpec 53 (streamT 53 [(v0, 53), (v1, 53), (v2, 53), (v3, 53), (v4, 53), (v5, 53), (v6, 53), (v7, 53)] 0 0) 25,
          ByteSpec 53 (streamT 53 [(v0, 53), (v1, 53), (v2, 53), (v3, 53), (v4, 53), (v5, 53), (v6, 53), (v7, 53)] 0 0) 26,
          ByteSpec 53 (streamT 53 [(v0, 53), (v1, 53), (v2, 53), (v3, 53), (v4, 53), (v5, 53), (v6, 53), (v7, 53)] 0 0) 27,
          ByteSpec 53 (streamT 53 [(v0, 53), (v1, 53), (v2, 53), (v3, 53), (v4, 53), (v5, 53), (v6, 53), (v7, 53)] 0 0) 28,
          ByteSpec 53 (streamT 53 [(v0, 53), (v1, 53), (v2, 53), (v3, 53), (v4, 53), (v5, 53), (v6, 53), (v7, 53)] 0 0) 29,
          ByteSpec 53 (streamT 53 [(v0, 53), (v1, 53), (v2, 53), (v3, 53), (v4, 53), (v5, 53), (v6, 53), (v7, 53)] 0 0) 30,
          ByteSpec 53 (streamT 53 [(v0, 53), (v1, 53), (v2, 53), (v3, 53), (v4, 53), (v5, 53), (v6, 53), (v7, 53)] 0 0) 31,
          ByteSpec 53 (streamT 53 [(v0, 53), (v1, 53), (v2, 53), (v3, 53), (v4, 53), (v5, 53), (v6, 53), (v7, 53)] 0 0) 32,
          ByteSpec 53 (streamT 53 [(v0, 53), (v1, 53), (v2, 53), (v3, 53), (v4, 53), (v5, 53), (v6, 53), (v7, 53)] 0 0) 33,
          ByteSpec 53 (streamT 53 [(v0, 53), (v1, 53), (v2, 53), (v3, 53), (v4, 53), (v5, 53), (v6, 53), (v7, 53)] 0 0) 34,
          ByteSpec 53 (streamT 53 [(v0, 53), (v1, 53), (v2, 53), (v3, 53), (v4, 53), (v5, 53), (v6, 53), (v7, 53)] 0 0) 35,
          ByteSpec 53 (streamT 53 [(v0, 53), (v1, 53), (v2, 53), (v3, 53), (v4, 53), (v5, 53), (v6, 53), (v7, 53)] 0 0) 36,
          ByteSpec 53 (streamT 53 [(v0, 53), (v1, 53), (v2, 53), (v3, 53), (v4, 53), (v5, 53), (v6, 53), (v7, 53)] 0 0) 37,
          ByteSpec 53 (streamT 53 [(v0, 53), (v1, 53), (v2, 53), (v3, 53), (v4, 53), (v5, 53), (v6, 53), (v7, 53)] 0 0) 38,
          ByteSpec 53 (streamT 53 [(v0, 53), (v1, 53), (v2, 53), (v3, 53), (v4, 53), (v5, 53), (v6, 53), (v7, 53)] 0 0) 39,
          ByteSpec 53 (streamT 53 [(v0, 53), (v1, 53), (v2, 53), (v3, 53), (v4, 53), (v5, 53), (v6, 53), (v7, 53)] 0 0) 40,
          ByteSpec 53 (streamT 53 [(v0, 53), (v1, 53), (v2, 53), (v3, 53), (v4, 53), (v5, 53), (v6, 53), (v7, 53)] 0 0) 41,
          ByteSpec 53 (streamT 53 [(v0, 53), (v1, 53), (v2, 53), (v3, 53), (v4, 53), (v5, 53), (v6, 53), (v7, 53)] 0 0) 42,
          ByteSpec 53 (streamT 53 [(v0, 53), (v1, 53), (v2, 53), (v3, 53), (v4, 53), (v5, 53), (v6, 53), (v7, 53)] 0 0) 43,
          ByteSpec 53 (streamT 53 [(v0, 53), (v1, 53), (v2, 53), (v3, 53), (v4, 53), (v5, 53), (v6, 53), (v7, 53)] 0 0) 44,
          ByteSpec 53 (streamT 53 [(v0, 53), (v1, 53), (v2, 53), (v3, 53), (v4, 53), (v5, 53), (v6, 53), (v7, 53)] 0 0) 45,
          ByteSpec 53 (streamT 53 [(v0, 53), (v1, 53), (v2, 53), (v3, 53), (v4, 53), (v5, 53), (v6, 53), (v7, 53)] 0 0) 46,
          ByteSpec 53 (streamT 53 [(v0, 53), (v1, 53), (v2, 53), (v3, 53), (v4, 53), (v5, 53), (v6, 53), (v7, 53)] 0 0) 47,
          ByteSpec 53 (streamT 53 [(v0, 53), (v1, 53), (v2, 53), (v3, 53), (v4, 53), (v5, 53), (v6, 53), (v7, 53)] 0 0) 48,
          ByteSpec 53 (streamT 53 [(v0, 53), (v1, 53), (v2, 53), (v3, 53), (v4, 53), (v5, 53), (v6, 53), (v7, 53)] 0 0) 49,
          ByteSpec 53 (streamT 53 [(v0, 53), (v1, 53), (v2, 53), (v3, 53), (v4, 53), (v5, 53), (v6, 53), (v7, 53)] 0 0) 50,
          ByteSpec 53 (streamT 53 [(v0, 53), (v1, 53), (v2, 53), (v3, 53), (v4, 53), (v5, 53), (v6, 53), (v7, 53)] 0 0) 51,
          ByteSpec 53 (streamT 53 [(v0, 53), (v1, 53), (v2, 53), (v3, 53), (v4, 53), (v5, 53), (v6, 53), (v7, 53)] 0 0) 52 ] :=
    (list_eq_map_range_of_getD _ _ 53 hlen hbytes).trans (by rfl)
  have key2 : pack_bits_53 v0 v1 v2 v3 v4 v5 v6 v7
      = [ u8 (((v0 >>> 45) &&& 0xff)),
          u8 (((v0 >>> 37) &&& 0xff)),
          u8 (((v0 >>> 29) &&& 0xff)),
          u8 (((v0 >>> 21) &&& 0xff)),
          u8 (((v0 >>> 13) &&& 0xff)),
          u8 (((v0 >>> 5) &&& 0xff)),
          u8 (((((v0) &&& 0x1f) <<< 3) ||| ((v1 >>> 50) &&& 0x7))),
          u8 (((v1 >>> 42) &&& 0xff)),
          u8 (((v1 >>> 34) &&& 0xff)),
          u8 (((v1 >>> 26) &&& 0xff)),
          u8 (((v1 >>> 18) &&& 0xff)),
          u8 (((v1 >>> 10) &&& 0xff)),
          u8 (((v1 >>> 2) &&& 0xff)),
          u8 (((((v1) &&& 0x3) <<< 6) ||| ((v2 >>> 47) &&& 0x3f))),
          u8 (((v2 >>> 39) &&& 0xff)),
          u8 (((v2 >>> 31) &&& 0xff)),
          u8 (((v2 >>> 23) &&& 0xff)),
          u8 (((v2 >>> 15) &&& 0xff)),
          u8 (((v2 >>> 7) &&& 0xff)),
          u8 (((((v2) &&& 0x7f) <<< 1) ||| ((v3 >>> 52) &&& 0x1))),
          u8 (((v3 >>> 44) &&& 0xff)),
          u8 (((v3 >>> 36) &&& 0xff)),
          u8 (((v3 >>> 28) &&& 0xff)),
          u8 (((v3 >>> 20) &&& 0xff)),
          u8 (((v3 >>> 12) &&& 0xff)),
          u8 (((v3 >>> 4) &&& 0xff)),
          u8 (((((v3) &&& 0xf) <<< 4) ||| ((v4 >>> 49) &&& 0xf))),
          u8 (((v4 >>> 41) &&& 0xff)),
          u8 (((v4 >>> 33) &&& 0xff)),
          u8 (((v4 >>> 25) &&& 0xff)),
          u8 (((v4 >>> 17) &&& 0xff)),
          u8 (((v4 >>> 9) &&& 0xff)),
          u8 (((v4 >>> 1) &&& 0xff)),
          u8 (((((v4) &&& 0x1) <<< 7) ||| ((v5 >>> 46) &&& 0x7f))),
          u8 (((v5 >>> 38) &&& 0xff)),
          u8 (((v5 >>> 30) &&& 0xff)),
          u8 (((v5 >>> 22) &&& 0xff)),
          u8 (((v5 >>> 14) &&& 0xff)),
          u8 (((v5 >>> 6) &&& 0xff)),
          u8 (((((v5) &&& 0x3f) <<< 2) ||| ((v6 >>> 51) &&& 0x3))),
          u8 (((v6 >>> 43) &&& 0xff)),
          u8 (((v6 >>> 35) &&& 0xff)),
          u8 (((v6 >>> 27) &&& 0xff)),
          u8 (((v6 >>> 19) &&& 0xff)),
          u8 (((v6 >>> 11) &&& 0xff)),
          u8 (((v6 >>> 3) &&& 0xff)),
          u8 (((((v6) &&& 0x7) <<< 5) ||| ((v7 >>> 48) &&& 0x1f))),
          u8 (((v7 >>> 40) &&& 0xff)),
          u8 (((v7 >>> 32) &&& 0xff)),
          u8 (((v7 >>> 24) &&& 0xff)),
          u8 (((v7 >>> 16) &&& 0xff)),
          u8 (((v7 >>> 8) &&& 0xff)),
          u8 (((v7) &&& 0xff)) ] := rfl
  obtain ⟨A0, S0, hT0, hA0, hS0⟩ :=
    streamT_decomp 53 [(v0, 53), (v1, 53), (v2, 53), (v3, 53), (v4, 53), (v5, 53), (v6, 53), (v7, 53)] [] [(v1, 53), (v2, 53), (v3, 53), (v4, 53), (v5, 53), (v6, 53), (v7, 53)] v0 53 0 rfl rfl hvs
      (by norm_num [List.map_cons, List.map_nil, List.sum_cons, List.sum_nil])
  obtain ⟨A1, S1, hT1, hA1, hS1⟩ :=
    streamT_decomp 53 [(v0, 53), (v1, 53), (v2, 53), (v3, 53), (v4, 53), (v5, 53), (v6, 53), (v7, 53)] [(v0, 53)] [(v2, 53), (v3, 53), (v4, 53), (v5, 53), (v6, 53), (v7, 53)] v1 53 53 rfl rfl hvs
      (by norm_num [List.map_cons, List.map_nil, List.sum_cons, List.sum_nil])
  obtain ⟨A2, S2, hT2, hA2, hS2⟩ :=
    streamT_decomp 53 [(v0, 53), (v1, 53), (v2, 53), (v3, 53), (v4, 53), (v5, 53), (v6, 53), (v7, 53)] [(v0, 53), (v1, 53)] [(v3, 53), (v4, 53), (v5, 53), (v6, 53), (v7, 53)] v2 53 106 rfl rfl hvs
      (by norm_num [List.map_cons, List.map_nil, List.sum_cons, List.sum_nil])
  obtain ⟨A3, S3, hT3, hA3, hS3⟩ :=
    streamT_decomp 53 [(v0, 53), (v1, 53), (v2, 53), (v3, 53), (v4, 53), (v5, 53), (v6, 53), (v7, 53)] [(v0, 53), (v1, 53), (v2, 53)] [(v4, 53), (v5, 53), (v6, 53), (v7, 53)] v3 53 159 rfl rfl hvs
      (by norm_num [List.map_cons, List.map_nil, List.sum_cons, List.sum_nil])
  obtain ⟨A4, S4, hT4, hA4, hS4⟩ :=
    streamT_decomp 53 [(v0, 53), (v1, 53), (v2, 53), (v3, 53), (v4, 53), (v5, 53), (v6, 53), (v7, 53)] [(v0, 53), (v1, 53), (v2, 53), (v3, 53)] [(v5, 53), (v6, 53), (v7, 53)] v4 53 212 rfl rfl hvs
      (by norm_num [List.map_cons, List.map_nil, List.sum_cons, List.sum_nil])
  obtain ⟨A5, S5, hT5, hA5, hS5⟩ :=
    streamT_decomp 53 [(v0, 53), (v1, 53), (v2, 53), (v3, 53), (v4, 53), (v5, 53), (v6, 53), (v7, 53)] [(v0, 53), (v1, 53), (v2, 53), (v3, 53), (v4, 53)] [(v6, 53), (v7, 53)] v5 53 265 rfl rfl hvs
      (by norm_num [List.map_cons, List.map_nil, List.sum_cons, List.sum_nil])
  obtain ⟨A6, S6, hT6, hA6, hS6⟩ :=
    streamT_decomp 53 [(v0, 53), (v1, 53), (v2, 53), (v3, 53), (v4, 53), (v5, 53), (v6, 53), (v7, 53)] [(v0, 53), (v1, 53), (v2, 53), (v3, 53), (v4, 53), (v5, 53)] [(v7, 53)] v6 53 318 rfl rfl hvs
      (by norm_num [List.map_cons, List.map_nil, List.sum_cons, List.sum_nil])
  obtain ⟨A7, S7, hT7, hA7, hS7⟩ :=
    streamT_decomp 53 [(v0, 53), (v1, 53), (v2, 53), (v3, 53), (v4, 53), (v5, 53), (v6, 53), (v7, 53)] [(v0, 53), (v1, 53), (v2, 53), (v3, 53), (v4, 53), (v5, 53), (v6, 53)] [] v7 53 371 rfl rfl hvs
      (by norm_num [List.map_cons, List.map_nil, List.sum_cons, List.sum_nil])
  obtain ⟨B0, R0, hU0, hB0, hR0⟩ :=
    streamT_decomp2 53 [(v0, 53), (v1, 53), (v2, 53), (v3, 53), (v4, 53), (v5, 53), (v6, 53), (v7, 53)] [] [(v2, 53), (v3, 53), (v4, 53), (v5, 53), (v6, 53), (v7, 53)] v0 v1 53 53 0 rfl rfl hvs
      (by norm_num [List.map_cons, List.map_nil, List.sum_cons, List.sum_nil])
  obtain ⟨B1, R1, hU1, hB1, hR1⟩ :=
    streamT_decomp2 53 [(v0, 53), (v1, 53), (v2, 53), (v3, 53), (v4, 53), (v5, 53), (v6, 53), (v7, 53)] [(v0, 53)] [(v3, 53), (v4, 53), (v5, 53), (v6, 53), (v7, 53)] v1 v2 53 53 53 rfl rfl hvs
      (by norm_num [List.map_cons, List.map_nil, List.sum_cons, List.sum_nil])
  obtain ⟨B2, R2, hU2, hB2, hR2⟩ :=
    streamT_decomp2 53 [(v0, 53), (v1, 53), (v2, 53), (v3, 53), (v4, 53), (v5, 53), (v6, 53), (v7, 53)] [(v0, 53), (v1, 53)] [(v4, 53), (v5, 53), (v6, 53), (v7, 53)] v2 v3 53 53 106 rfl rfl hvs
      (by norm_num [List.map_cons, List.map_nil, List.sum_cons, List.sum_nil])
  obtain ⟨B3, R3, hU3, hB3, hR3⟩ :=
    streamT_decomp2 53 [(v0, 53), (v1, 53), (v2, 53), (v3, 53), (v4, 53), (v5, 53), (v6, 53), (v7, 53)] [(v0, 53), (v1, 53), (v2, 53)] [(v5, 53), (v6, 53), (v7, 53)] v3 v4 53 53 159 rfl rfl hvs
      (by norm_num [List.map_cons, List.map_nil, List.sum_cons, List.sum_nil])
  obtain ⟨B4, R4, hU4, hB4, hR4⟩ :=
    streamT_decomp2 53 [(v0, 53), (v1, 53), (v2, 53), (v3, 53), (v4, 53), (v5, 53), (v6, 53), (v7, 53)] [(v0, 53), (v1, 53), (v2, 53), (v3, 53)] [(v6, 53), (v7, 53)] v4 v5 53 53 212 rfl rfl hvs
      (by norm_num [List.map_cons, List.map_nil, List.sum_cons, List.sum_nil])
  obtain ⟨B5, R5, hU5, hB5, hR5⟩ :=
    streamT_decomp2 53 [(v0, 53), (v1, 53), (v2, 53), (v3, 53), (v4, 53), (v5, 53), (v6, 53), (v7, 53)] [(v0, 53), (v1, 53), (v2, 53), (v3, 53), (v4, 53)] [(v7, 53)] v5 v6 53 53 265 rfl rfl hvs
      (by norm_num [List.map_cons, List.map_nil, List.sum_cons, List.sum_nil])
  obtain ⟨B6, R6, hU6, hB6, hR6⟩ :=
    streamT_decomp2 53 [(v0, 53), (v1, 53), (v2, 53), (v3, 53), (v4, 53), (v5, 53), (v6, 53), (v7, 53)] [(v0, 53), (v1, 53), (v2, 53), (v3, 53), (v4, 53), (v5, 53)] [] v6 v7 53 53 318 rfl rfl hvs
      (by norm_num [List.map_cons, List.map_nil, List.sum_cons, List.sum_nil])
  rw [key, key2]
  simp only [List.cons.injEq]
  refine ⟨?_, ?_, ?_, ?_, ?_, ?_, ?_, ?_, ?_, ?_, ?_, ?_, ?_, ?_, ?_, ?_, ?_, ?_, ?_, ?_, ?_, ?_, ?_, ?_, ?_, ?_, ?_, ?_, ?_, ?_, ?_, ?_, ?_, ?_, ?_, ?_, ?_, ?_, ?_, ?_, ?_, ?_, ?_, ?_, ?_, ?_, ?_, ?_, ?_, ?_, ?_, ?_, ?_, trivial⟩
  · rw [hT0]
    exact byteSpec_mid 53 A0 v0 S0 (8 * 53 - 0 - 53) 53 0 45 hA0 hS0
      (by norm_num) (by norm_num)
  · rw [hT0]
    exact byteSpec_mid 53 A0 v0 S0 (8 * 53 - 0 - 53) 53 1 37 hA0 hS0
      (by norm_num) (by norm_num)
  · rw [hT0]
    exact byteSpec_mid 53 A0 v0 S0 (8 * 53 - 0 - 53) 53 2 29 hA0 hS0
      (by norm_num) (by norm_num)
  · rw [hT0]
    exact byteSpec_mid 53 A0 v0 S0 (8 * 53 - 0 - 53) 53 3 21 hA0 hS0
      (by norm_num) (by norm_num)
  · rw [hT0]
    exact byteSpec_mid 53 A0 v0 S0 (8 * 53 - 0 - 53) 53 4 13 hA0 hS0
      (by norm_num) (by norm_num)
  · rw [hT0]
    exact byteSpec_mid 53 A0 v0 S0 (8 * 53 - 0 - 53) 53 5 5 hA0 hS0
      (by norm_num) (by norm_num)
  · rw [hU0]
    exact byteSpec_bnd 53 B0 v0 v1 R0 (8 * 53 - 0 - 53 - 53) 6 5 3 50 31 7 53 hB0 hv0 hv1 hR0
      (by norm_num) (by norm_num) (by norm_num) (by norm_num) (by norm_num)
  · rw [hT1]
    exact byteSpec_mid 53 A1 v1 S1 (8 * 53 - 53 - 53) 53 7 42 hA1 hS1
      (by norm_num) (by norm_num)
  · rw [hT1]
    exact byteSpec_mid 53 A1 v1 S1 (8 * 53 - 53 - 53) 53 8 34 hA1 hS1
      (by norm_num) (by norm_num)
  · rw [hT1]
    exact byteSpec_mid 53 A1 v1 S1 (8 * 53 - 53 - 53) 53 9 26 hA1 hS1
      (by norm_num) (by norm_num)
  · rw [hT1]
    exact byteSpec_mid 53 A1 v1 S1 (8 * 53 - 53 - 53) 53 10 18 hA1 hS1
      (by norm_num) (by norm_num)
  · rw [hT1]
    exact byteSpec_mid 53 A1 v1 S1 (8 * 53 - 53 - 53) 53 11 10 hA1 hS1
      (by norm_num) (by norm_num)
  · rw [hT1]
    exact byteSpec_mid 53 A1 v1 S1 (8 * 53 - 53 - 53) 53 12 2 hA1 hS1
      (by norm_num) (by norm_num)
  · rw [hU1]
    exact byteSpec_bnd 53 B1 v1 v2 R1 (8 * 53 - 53 - 53 - 53) 13 2 6 47 3 63 53 hB1 hv1 hv2 hR1
      (by norm_num) (by norm_num) (by norm_num) (by norm_num) (by norm_num)
  · rw [hT2]
    exact byteSpec_mid 53 A2 v2 S2 (8 * 53 - 106 - 53) 53 14 39 hA2 hS2
      (by norm_num) (by norm_num)
  · rw [hT2]
    exact byteSpec_mid 53 A2 v2 S2 (8 * 53 - 106 - 53) 53 15 31 hA2 hS2
      (by norm_num) (by norm_num)
  · rw [hT2]
    exact byteSpec_mid 53 A2 v2 S2 (8 * 53 - 106 - 53) 53 16 23 hA2 hS2
      (by norm_num) (by norm_num)
  · rw [hT2]
    exact byteSpec_mid 53 A2 v2 S2 (8 * 53 - 106 - 53) 53 17 15 hA2 hS2
      (by norm_num) (by norm_num)
  · rw [hT2]
    exact byteSpec_mid 53 A2 v2 S2 (8 * 53 - 106 - 53) 53 18 7 hA2 hS2
      (by norm_num) (by norm_num)
  · rw [hU2]
    exact byteSpec_bnd 53 B2 v2 v3 R2 (8 * 53 - 106 - 53 - 53) 19 7 1 52 127 1 53 hB2 hv2 hv3 hR2
      (by norm_num) (by norm_num) (by norm_num) (by norm_num) (by norm_num)
  · rw [hT3]
    exact byteSpec_mid 53 A3 v3 S3 (8 * 53 - 159 - 53) 53 20 44 hA3 hS3
      (by norm_num) (by norm_num)
  · rw [hT3]
    exact byteSpec_mid 53 A3 v3 S3 (8 * 53 - 159 - 53) 53 21 36 hA3 hS3
      (by norm_num) (by norm_num)
  · rw [hT3]
    exact byteSpec_mid 53 A3 v3 S3 (8 * 53 - 159 - 53) 53 22 28 hA3 hS3
      (by norm_num) (by norm_num)
  · rw [hT3]
    exact byteSpec_mid 53 A3 v3 S3 (8 * 53 - 159 - 53) 53 23 20 hA3 hS3
      (by norm_num) (by norm_num)
  · rw [hT3]
    exact byteSpec_mid 53 A3 v3 S3 (8 * 53 - 159 - 53) 53 24 12 hA3 hS3
      (by norm_num) (by norm_num)
  · rw [hT3]
    exact byteSpec_mid 53 A3 v3 S3 (8 * 53 - 159 - 53) 53 25 4 hA3 hS3
      (by norm_num) (by norm_num)
  · rw [hU3]
    exact byteSpec_bnd 53 B3 v3 v4 R3 (8 * 53 - 159 - 53 - 53) 26 4 4 49 15 15 53 hB3 hv3 hv4 hR3
      (by norm_num) (by norm_num) (by norm_num) (by norm_num) (by norm_num)
  · rw [hT4]
    exact byteSpec_mid 53 A4 v4 S4 (8 * 53 - 212 - 53) 53 27 41 hA4 hS4
      (by norm_num) (by norm_num)
  · rw [hT4]
    exact byteSpec_mid 53 A4 v4 S4 (8 * 53 - 212 - 53) 53 28 33 hA4 hS4
      (by norm_num) (by norm_num)
  · rw [hT4]
    exact byteSpec_mid 53 A4 v4 S4 (8 * 53 - 212 - 53) 53 29 25 hA4 hS4
      (by norm_num) (by norm_num)
  · rw [hT4]
    exact byteSpec_mid 53 A4 v4 S4 (8 * 53 - 212 - 53) 53 30 17 hA4 hS4
      (by norm_num) (by norm_num)
  · rw [hT4]
    exact byteSpec_mid 53 A4 v4 S4 (8 * 53 - 212 - 53) 53 31 9 hA4 hS4
      (by norm_num) (by norm_num)
  · rw [hT4]
    exact byteSpec_mid 53 A4 v4 S4 (8 * 53 - 212 - 53) 53 32 1 hA4 hS4
      (by norm_num) (by norm_num)
  · rw [hU4]
    exact byteSpec_bnd 53 B4 v4 v5 R4 (8 * 53 - 212 - 53 - 53) 33 1 7 46 1 127 53 hB4 hv4 hv5 hR4
      (by norm_num) (by norm_num) (by norm_num) (by norm_num) (by norm_num)
  · rw [hT5]
    exact byteSpec_mid 53 A5 v5 S5 (8 * 53 - 265 - 53) 53 34 38 hA5 hS5
      (by norm_num) (by norm_num)
  · rw [hT5]
    exact byteSpec_mid 53 A5 v5 S5 (8 * 53 - 265 - 53) 53 35 30 hA5 hS5
      (by norm_num) (by norm_num)
  · rw [hT5]
    exact byteSpec_mid 53 A5 v5 S5 (8 * 53 - 265 - 53) 53 36 22 hA5 hS5
      (by norm_num) (by norm_num)
  · rw [hT5]
    exact byteSpec_mid 53 A5 v5 S5 (8 * 53 - 265 - 53) 53 37 14 hA5 hS5
      (by norm_num) (by norm_num)
  · rw [hT5]
    exact byteSpec_mid 53 A5 v5 S5 (8 * 53 - 265 - 53) 53 38 6 hA5 hS5
      (by norm_num) (by norm_num)
  · rw [hU5]
    exact byteSpec_bnd 53 B5 v5 v6 R5 (8 * 53 - 265 - 53 - 53) 39 6 2 51 63 3 53 hB5 hv5 hv6 hR5
      (by norm_num) (by norm_num) (by norm_num) (by norm_num) (by norm_num)
  · rw [hT6]
    exact byteSpec_mid 53 A6 v6 S6 (8 * 53 - 318 - 53) 53 40 43 hA6 hS6
      (by norm_num) (by norm_num)
  · rw [hT6]
    exact byteSpec_mid 53 A6 v6 S6 (8 * 53 - 318 - 53) 53 41 35 hA6 hS6
      (by norm_num) (by norm_num)
  · rw [hT6]
    exact byteSpec_mid 53 A6 v6 S6 (8 * 53 - 318 - 53) 53 42 27 hA6 hS6
      (by norm_num) (by norm_num)
  · rw [hT6]
    exact byteSpec_mid 53 A6 v6 S6 (8 * 53 - 318 - 53) 53 43 19 hA6 hS6
      (by norm_num) (by norm_num)
  · rw [hT6]
    exact byteSpec_mid 53 A6 v6 S6 (8 * 53 - 318 - 53) 53 44 11 hA6 hS6
      (by norm_num) (by norm_num)
  · rw [hT6]
    exact byteSpec_mid 53 A6 v6 S6 (8 * 53 - 318 - 53) 53 45 3 hA6 hS6
      (by norm_num) (by norm_num)
  · rw [hU6]
    exact byteSpec_bnd 53 B6 v6 v7 R6 (8 * 53 - 318 - 53 - 53) 46 3 5 48 7 31 53 hB6 hv6 hv7 hR6
      (by norm_num) (by norm_num) (by norm_num) (by norm_num) (by norm_num)
  · rw [hT7]
    exact byteSpec_mid 53 A7 v7 S7 (8 * 53 - 371 - 53) 53 47 40 hA7 hS7
      (by norm_num) (by norm_num)
  · rw [hT7]
    exact byteSpec_mid 53 A7 v7 S7 (8 * 53 - 371 - 53) 53 48 32 hA7 hS7
      (by norm_num) (by norm_num)
  · rw [hT7]
    exact byteSpec_mid 53 A7 v7 S7 (8 * 53 - 371 - 53) 53 49 24 hA7 hS7
      (by norm_num) (by norm_num)
  · rw [hT7]
    exact byteSpec_mid 53 A7 v7 S7 (8 * 53 - 371 - 53) 53 50 16 hA7 hS7
      (by norm_num) (by norm_num)
  · rw [hT7]
    exact byteSpec_mid 53 A7 v7 S7 (8 * 53 - 371 - 53) 53 51 8 hA7 hS7
      (by norm_num) (by norm_num)
  · rw [hT7]
    exact byteSpec_mid0 53 A7 v7 S7 (8 * 53 - 371 - 53) 53 52 hA7 hS7
      (by norm_num) (by norm_num)

set_option maxRecDepth 16000 in
set_option maxHeartbeats 1000000 in
theorem c5_pack_eq_54 (v0 v1 v2 v3 v4 v5 v6 v7 : Nat) (hv0 : v0 < 2 ^ 54) (hv1 : v1 < 2 ^ 54) (hv2 : v2 < 2 ^ 54) (hv3 : v3 < 2 ^ 54) (hv4 : v4 < 2 ^ 54) (hv5 : v5 < 2 ^ 54) (hv6 : v6 < 2 ^ 54) (hv7 : v7 < 2 ^ 54) :
    (packSeq (BitPacker.new (List.replicate 54 0)) [(v0, 54), (v1, 54), (v2, 54), (v3, 54), (v4, 54), (v5, 54), (v6, 54), (v7, 54)]).bytes
      = pack_bits_54 v0 v1 v2 v3 v4 v5 v6 v7 := by
  have hvs : ∀ p ∈ ([(v0, 54), (v1, 54), (v2, 54), (v3, 54), (v4, 54), (v5, 54), (v6, 54), (v7, 54)] : List (Nat × Nat)), p.1 < 2 ^ p.2 := by
    intro p hp
    simp only [List.mem_cons, List.not_mem_nil, or_false] at hp
    rcases hp with rfl | rfl | rfl | rfl | rfl | rfl | rfl | rfl
    exacts [hv0, hv1, hv2, hv3, hv4, hv5, hv6, hv7]
  obtain ⟨-, -, -, ⟨hlen, hbytes⟩, -, -⟩ :=
    packSeq_inv 54 [(v0, 54), (v1, 54), (v2, 54), (v3, 54), (v4, 54), (v5, 54), (v6, 54), (v7, 54)] 0 0 _ hvs
      (by norm_num [List.map_cons, List.map_nil, List.sum_cons, List.sum_nil]) (packInv_init 54)
  have key : (packSeq (BitPacker.new (List.replicate 54 0)) [(v0, 54), (v1, 54), (v2, 54), (v3, 54), (v4, 54), (v5, 54), (v6, 54), (v7, 54)]).bytes
      = [ ByteSpec 54 (streamT 54 [(v0, 54), (v1, 54), (v2, 54), (v3, 54), (v4, 54), (v5, 54), (v6, 54), (v7, 54)] 0 0) 0,
          ByteSpec 54 (streamT 54 [(v0, 54), (v1, 54), (v2, 54), (v3, 54), (v4, 54), (v5, 54), (v6, 54), (v7, 54)] 0 0) 1,
          ByteSpec 54 (streamT 54 [(v0, 54), (v1, 54), (v2, 54), (v3, 54), (v4, 54), (v5, 54), (v6, 54), (v7, 54)] 0 0) 2,
          ByteSpec 54 (streamT 54 [(v0, 54), (v1, 54), (v2, 54), (v3, 54), (v4, 54), (v5, 54), (v6, 54), (v7, 54)] 0 0) 3,
          ByteSpec 54 (streamT 54 [(v0, 54), (v1, 54), (v2, 54), (v3, 54), (v4, 54), (v5, 54), (v6, 54), (v7, 54)] 0 0) 4,
          ByteSpec 54 (streamT 54 [(v0, 54), (v1, 54), (v2, 54), (v3, 54), (v4, 54), (v5, 54), (v6, 54), (v7, 54)] 0 0) 5,
          ByteSpec 54 (streamT 54 [(v0, 54), (v1, 54), (v2, 54), (v3, 54), (v4, 54), (v5, 54), (v6, 54), (v7, 54)] 0 0) 6,
          ByteSpec 54 (streamT 54 [(v0, 54), (v1, 54), (v2, 54), (v3, 54), (v4, 54), (v5, 54), (v6, 54), (v7, 54)] 0 0) 7,
          ByteSpec 54 (streamT 54 [(v0, 54), (v1, 54), (v2, 54), (v3, 54), (v4, 54), (v5, 54), (v6, 54), (v7, 54)] 0 0) 8,
          ByteSpec 54 (streamT 54 [(v0, 54), (v1, 54), (v2, 54), (v3, 54), (v4, 54), (v5, 54), (v6, 54), (v7, 54)] 0 0) 9,
          ByteSpec 54 (streamT 54 [(v0, 54), (v1, 54), (v2, 54), (v3, 54), (v4, 54), (v5, 54), (v6, 54), (v7, 54)] 0 0) 10,
          ByteSpec 54 (streamT 54 [(v0, 54), (v1, 54), (v2, 54), (v3, 54), (v4, 54), (v5, 54), (v6, 54), (v7, 54)] 0 0) 11,
          ByteSpec 54 (streamT 54 [(v0, 54), (v1, 54), (v2, 54), (v3, 54), (v4, 54), (v5, 54), (v6, 54), (v7, 54)] 0 0) 12,
          ByteSpec 54 (streamT 54 [(v0, 54), (v1, 54), (v2, 54), (v3, 54), (v4, 54), (v5, 54), (v6, 54), (v7, 54)] 0 0) 13,
          ByteSpec 54 (streamT 54 [(v0, 54), (v1, 54), (v2, 54), (v3, 54), (v4, 54), (v5, 54), (v6, 54), (v7, 54)] 0 0) 14,
          ByteSpec 54 (streamT 54 [(v0, 54), (v1, 54), (v2, 54), (v3, 54), (v4, 54), (v5, 54), (v6, 54), (v7, 54)] 0 0) 15,
          ByteSpec 54 (streamT 54 [(v0, 54), (v1, 54), (v2, 54), (v3, 54), (v4, 54), (v5, 54), (v6, 54), (v7, 54)] 0 0) 16,
          ByteSpec 54 (streamT 54 [(v0, 54), (v1, 54), (v2, 54), (v3, 54), (v4, 54), (v5, 54), (v6, 54), (v7, 54)] 0 0) 17,
          ByteSpec 54 (streamT 54 [(v0, 54), (v1, 54), (v2, 54), (v3, 54), (v4, 54), (v5, 54), (v6, 54), (v7, 54)] 0 0) 18,
          ByteSpec 54 (streamT 54 [(v0, 54), (v1, 54), (v2, 54), (v3, 54), (v4, 54), (v5, 54), (v6, 54), (v7, 54)] 0 0) 19,
          ByteSpec 54 (streamT 54 [(v0, 54), (v1, 54), (v2, 54), (v3, 54), (v4, 54), (v5, 54), (v6, 54), (v7, 54)] 0 0) 20,
          ByteSpec 54 (streamT 54 [(v0, 54), (v1, 54), (v2, 54), (v3, 54), (v4, 54), (v5, 54), (v6, 54), (v7, 54)] 0 0) 21,
          ByteSpec 54 (streamT 54 [(v0, 54), (v1, 54), (v2, 54), (v3, 54), (v4, 54), (v5, 54), (v6, 54), (v7, 54)] 0 0) 22,
          ByteSpec 54 (streamT 54 [(v0, 54), (v1, 54), (v2, 54), (v3, 54), (v4, 54), (v5, 54), (v6, 54), (v7, 54)] 0 0) 23,
          ByteSpec 54 (streamT 54 [(v0, 54), (v1, 54), (v2, 54), (v3, 54), (v4, 54), (v5, 54), (v6, 54), (v7, 54)] 0 0) 24,
          ByteSpec 54 (streamT 54 [(v0, 54), (v1, 54), (v2, 54), (v3, 54), (v4, 54), (v5, 54), (v6, 54), (v7, 54)] 0 0) 25,
          ByteSpec 54 (streamT 54 [(v0, 54), (v1, 54), (v2, 54), (v3, 54), (v4, 54), (v5, 54), (v6, 54), (v7, 54)] 0 0) 26,
          ByteSpec 54 (streamT 54 [(v0, 54), (v1, 54), (v2, 54), (v3, 54), (v4, 54), (v5, 54), (v6, 54), (v7, 54)] 0 0) 27,
          ByteSpec 54 (streamT 54 [(v0, 54), (v1, 54), (v2, 54), (v3, 54), (v4, 54), (v5, 54), (v6, 54), (v7, 54)] 0 0) 28,
          ByteSpec 54 (streamT 54 [(v0, 54), (v1, 54), (v2, 54), (v3, 54), (v4, 54), (v5, 54), (v6, 54), (v7, 54)] 0 0) 29,
          ByteSpec 54 (streamT 54 [(v0, 54), (v1, 54), (v2, 54), (v3, 54), (v4, 54), (v5, 54), (v6, 54), (v7, 54)] 0 0) 30,
          ByteSpec 54 (streamT 54 [(v0, 54), (v1, 54), (v2, 54), (v3, 54), (v4, 54), (v5, 54), (v6, 54), (v7, 54)] 0 0) 31,
          ByteSpec 54 (streamT 54 [(v0, 54), (v1, 54), (v2, 54), (v3, 54), (v4, 54), (v5, 54), (v6, 54), (v7, 54)] 0 0) 32,
          ByteSpec 54 (streamT 54 [(v0, 54), (v1, 54), (v2, 54), (v3, 54), (v4, 54), (v5, 54), (v6, 54), (v7, 54)] 0 0) 33,
          ByteSpec 54 (streamT 54 [(v0, 54), (v1, 54), (v2, 54), (v3, 54), (v4, 54), (v5, 54), (v6, 54), (v7, 54)] 0 0) 34,
          ByteSpec 54 (streamT 54 [(v0, 54), (v1, 54), (v2, 54), (v3, 54), (v4, 54), (v5, 54), (v6, 54), (v7, 54)] 0 0) 35,
          ByteSpec 54 (streamT 54 [(v0, 54), (v1, 54), (v2, 54), (v3, 54), (v4, 54), (v5, 54), (v6, 54), (v7, 54)] 0 0) 36,
          ByteSpec 54 (streamT 54 [(v0, 54), (v1, 54), (v2, 54), (v3, 54), (v4, 54), (v5, 54), (v6, 54), (v7, 54)] 0 0) 37,
          ByteSpec 54 (streamT 54 [(v0, 54), (v1, 54), (v2, 54), (v3, 54), (v4, 54), (v5, 54), (v6, 54), (v7, 54)] 0 0) 38,
          ByteSpec 54 (streamT 54 [(v0, 54), (v1, 54), (v2, 54), (v3, 54), (v4, 54), (v5, 54), (v6, 54), (v7, 54)] 0 0) 39,
          ByteSpec 54 (streamT 54 [(v0, 54), (v1, 54), (v2, 54), (v3, 54), (v4, 54), (v5, 54), (v6, 54), (v7, 54)] 0 0) 40,
          ByteSpec 54 (streamT 54 [(v0, 54), (v1, 54), (v2, 54), (v3, 54), (v4, 54), (v5, 54), (v6, 54), (v7, 54)] 0 0) 41,
          ByteSpec 54 (streamT 54 [(v0, 54), (v1, 54), (v2, 54), (v3, 54), (v4, 54), (v5, 54), (v6, 54), (v7, 54)] 0 0) 42,
          ByteSpec 54 (streamT 54 [(v0, 54), (v1, 54), (v2, 54), (v3, 54), (v4, 54), (v5, 54), (v6, 54), (v7, 54)] 0 0) 43,
          ByteSpec 54 (streamT 54 [(v0, 54), (v1, 54), (v2, 54), (v3, 54), (v4, 54), (v5, 54), (v6, 54), (v7, 54)] 0 0) 44,
          ByteSpec 54 (streamT 54 [(v0, 54), (v1, 54), (v2, 54), (v3, 54), (v4, 54), (v5, 54), (v6, 54), (v7, 54)] 0 0) 45,
          ByteSpec 54 (streamT 54 [(v0, 54), (v1, 54), (v2, 54), (v3, 54), (v4, 54), (v5, 54), (v6, 54), (v7, 54)] 0 0) 46,
          ByteSpec 54 (streamT 54 [(v0, 54), (v1, 54), (v2, 54), (v3, 54), (v4, 54), (v5, 54), (v6, 54), (v7, 54)] 0 0) 47,
          ByteSpec 54 (streamT 54 [(v0, 54), (v1, 54), (v2, 54), (v3, 54), (v4, 54), (v5, 54), (v6, 54), (v7, 54)] 0 0) 48,
          ByteSpec 54 (streamT 54 [(v0, 54), (v1, 54), (v2, 54), (v3, 54), (v4, 54), (v5, 54), (v6, 54), (v7, 54)] 0 0) 49,
          ByteSpec 54 (streamT 54 [(v0, 54), (v1, 54), (v2, 54), (v3, 54), (v4, 54), (v5, 54), (v6, 54), (v7, 54)] 0 0) 50,
          ByteSpec 54 (streamT 54 [(v0, 54), (v1, 54), (v2, 54), (v3, 54), (v4, 54), (v5, 54), (v6, 54), (v7, 54)] 0 0) 51,
          ByteSpec 54 (streamT 54 [(v0, 54), (v1, 54), (v2, 54), (v3, 54), (v4, 54), (v5, 54), (v6, 54), (v7, 54)] 0 0) 52,
          ByteSpec 54 (streamT 54 [(v0, 54), (v1, 54), (v2, 54), (v3, 54), (v4, 54), (v5, 54), (v6, 54), (v7, 54)] 0 0) 53 ] :=
    (list_eq_map_range_of_getD _ _ 54 hlen hbytes).trans (by rfl)
  have key2 : pack_bits_54 v0 v1 v2 v3 v4 v5 v6 v7
      = [ u8 (((v0 >>> 46) &&& 0xff)),
          u8 (((v0 >>> 38) &&& 0xff)),
          u8 (((v0 >>> 30) &&& 0xff)),
          u8 (((v0 >>> 22) &&& 0xff)),
          u8 (((v0 >>> 14) &&& 0xff)),
          u8 (((v0 >>> 6) &&& 0xff)),
          u8 (((((v0) &&& 0x3f) <<< 2) ||| ((v1 >>> 52) &&& 0x3))),
          u8 (((v1 >>> 44) &&& 0xff)),
          u8 (((v1 >>> 36) &&& 0xff)),
          u8 (((v1 >>> 28) &&& 0xff)),
          u8 (((v1 >>> 20) &&& 0xff)),
          u8 (((v1 >>> 12) &&& 0xff)),
          u8 (((v1 >>> 4) &&& 0xff)),
          u8 (((((v1) &&& 0xf) <<< 4) ||| ((v2 >>> 50) &&& 0xf))),
          u8 (((v2 >>> 42) &&& 0xff)),
          u8 (((v2 >>> 34) &&& 0xff)),
          u8 (((v2 >>> 26) &&& 0xff)),
          u8 (((v2 >>> 18) &&& 0xff)),
          u8 (((v2 >>> 10) &&& 0xff)),
          u8 (((v2 >>> 2) &&& 0xff)),
          u8 (((((v2) &&& 0x3) <<< 6) ||| ((v3 >>> 48) &&& 0x3f))),
          u8 (((v3 >>> 40) &&& 0xff)),
          u8 (((v3 >>> 32) &&& 0xff)),
          u8 (((v3 >>> 24) &&& 0xff)),
          u8 (((v3 >>> 16) &&& 0xff)),
          u8 (((v3 >>> 8) &&& 0xff)),
          u8 (((v3) &&& 0xff)),
          u8 (((v4 >>> 46) &&& 0xff)),
          u8 (((v4 >>> 38) &&& 0xff)),
          u8 (((v4 >>> 30) &&& 0xff)),
          u8 (((v4 >>> 22) &&& 0xff)),
          u8 (((v4 >>> 14) &&& 0xff)),
          u8 (((v4 >>> 6) &&& 0xff)),
          u8 (((((v4) &&& 0x3f) <<< 2) ||| ((v5 >>> 52) &&& 0x3))),
          u8 (((v5 >>> 44) &&& 0xff)),
          u8 (((v5 >>> 36) &&& 0xff)),
          u8 (((v5 >>> 28) &&& 0xff)),
          u8 (((v5 >>> 20) &&& 0xff)),
          u8 (((v5 >>> 12) &&& 0xff)),
          u8 (((v5 >>> 4) &&& 0xff)),
          u8 (((((v5) &&& 0xf) <<< 4) ||| ((v6 >>> 50) &&& 0xf))),
          u8 (((v6 >>> 42) &&& 0xff)),
          u8 (((v6 >>> 34) &&& 0xff)),
          u8 (((v6 >>> 26) &&& 0xff)),
          u8 (((v6 >>> 18) &&& 0xff)),
          u8 (((v6 >>> 10) &&& 0xff)),
          u8 (((v6 >>> 2) &&& 0xff)),
          u8 (((((v6) &&& 0x3) <<< 6) ||| ((v7 >>> 48) &&& 0x3f))),
          u8 (((v7 >>> 40) &&& 0xff)),
          u8 (((v7 >>> 32) &&& 0xff)),
          u8 (((v7 >>> 24) &&& 0xff)),
          u8 (((v7 >>> 16) &&& 0xff)),
          u8 (((v7 >>> 8) &&& 0xff)),
          u8 (((v7) &&& 0xff)) ] := rfl
  obtain ⟨A0, S0, hT0, hA0, hS0⟩ :=
    streamT_decomp 54 [(v0, 54), (v1, 54), (v2, 54), (v3, 54), (v4, 54), (v5, 54), (v6, 54), (v7, 54)] [] [(v1, 54), (v2, 54), (v3, 54), (v4, 54), (v5, 54), (v6, 54), (v7, 54)] v0 54 0 rfl rfl hvs
      (by norm_num [List.map_cons, List.map_nil, List.sum_cons, List.sum_nil])
  obtain ⟨A1, S1, hT1, hA1, hS1⟩ :=
    streamT_decomp 54 [(v0, 54), (v1, 54), (v2, 54), (v3, 54), (v4, 54), (v5, 54), (v6, 54), (v7, 54)] [(v0, 54)] [(v2, 54), (v3, 54), (v4, 54), (v5, 54), (v6, 54), (v7, 54)] v1 54 54 rfl rfl hvs
      (by norm_num [List.map_cons, List.map_nil, List.sum_cons, List.sum_nil])
  obtain ⟨A2, S2, hT2, hA2, hS2⟩ :=
    streamT_decomp 54 [(v0, 54), (v1, 54), (v2, 54), (v3, 54), (v4, 54), (v5, 54), (v6, 54), (v7, 54)] [(v0, 54), (v1, 54)] [(v3, 54), (v4, 54), (v5, 54), (v6, 54), (v7, 54)] v2 54 108 rfl rfl hvs
      (by norm_num [List.map_cons, List.map_nil, List.sum_cons, List.sum_nil])
  obtain ⟨A3, S3, hT3, hA3, hS3⟩ :=
    streamT_decomp 54 [(v0, 54), (v1, 54), (v2, 54), (v3, 54), (v4, 54), (v5, 54), (v6, 54), (v7, 54)] [(v0, 54), (v1, 54), (v2, 54)] [(v4, 54), (v5, 54), (v6, 54), (v7, 54)] v3 54 162 rfl rfl hvs
      (by norm_num [List.map_cons, List.map_nil, List.sum_cons, List.sum_nil])
  obtain ⟨A4, S4, hT4, hA4, hS4⟩ :=
    streamT_decomp 54 [(v0, 54), (v1, 54), (v2, 54), (v3, 54), (v4, 54), (v5, 54), (v6, 54), (v7, 54)] [(v0, 54), (v1, 54), (v2, 54), (v3, 54)] [(v5, 54), (v6, 54), (v7, 54)] v4 54 216 rfl rfl hvs
      (by norm_num [List.map_cons, List.map_nil, List.sum_cons, List.sum_nil])
  obtain ⟨A5, S5, hT5, hA5, hS5⟩ :=
    streamT_decomp 54 [(v0, 54), (v1, 54), (v2, 54), (v3, 54), (v4, 54), (v5, 54), (v6, 54), (v7, 54)] [(v0, 54), (v1, 54), (v2, 54), (v3, 54), (v4, 54)] [(v6, 54), (v7, 54)] v5 54 270 rfl rfl hvs
      (by norm_num [List.map_cons, List.map_nil, List.sum_cons, List.sum_nil])
  obtain ⟨A6, S6, hT6, hA6, hS6⟩ :=
    streamT_decomp 54 [(v0, 54), (v1, 54), (v2, 54), (v3, 54), (v4, 54), (v5, 54), (v6, 54), (v7, 54)] [(v0, 54), (v1, 54), (v2, 54), (v3, 54), (v4, 54), (v5, 54)] [(v7, 54)] v6 54 324 rfl rfl hvs
      (by norm_num [List.map_cons, List.map_nil, List.sum_cons, List.sum_nil])
  obtain ⟨A7, S7, hT7, hA7, hS7⟩ :=
    streamT_decomp 54 [(v0, 54), (v1, 54), (v2, 54), (v3, 54), (v4, 54), (v5, 54), (v6, 54), (v7, 54)] [(v0, 54), (v1, 54), (v2, 54), (v3, 54), (v4, 54), (v5, 54), (v6, 54)] [] v7 54 378 rfl rfl hvs
      (by norm_num [List.map_cons, List.map_nil, List.sum_cons, List.sum_nil])
  obtain ⟨B0, R0, hU0, hB0, hR0⟩ :=
    streamT_decomp2 54 [(v0, 54), (v1, 54), (v2, 54), (v3, 54), (v4, 54), (v5, 54), (v6, 54), (v7, 54)] [] [(v2, 54), (v3, 54), (v4, 54), (v5, 54), (v6, 54), (v7, 54)] v0 v1 54 54 0 rfl rfl hvs
      (by norm_num [List.map_cons, List.map_nil, List.sum_cons, List.sum_nil])
  obtain ⟨B1, R1, hU1, hB1, hR1⟩ :=
    streamT_decomp2 54 [(v0, 54), (v1, 54), (v2, 54), (v3, 54), (v4, 54), (v5, 54), (v6, 54), (v7, 54)] [(v0, 54)] [(v3, 54), (v4, 54), (v5, 54), (v6, 54), (v7, 54)] v1 v2 54 54 54 rfl rfl hvs
      (by norm_num [List.map_cons, List.map_nil, List.sum_cons, List.sum_nil])
  obtain ⟨B2, R2, hU2, hB2, hR2⟩ :=
    streamT_decomp2 54 [(v0, 54), (v1, 54), (v2, 54), (v3, 54), (v4, 54), (v5, 54), (v6, 54), (v7, 54)] [(v0, 54), (v1, 54)] [(v4, 54), (v5, 54), (v6, 54), (v7, 54)] v2 v3 54 54 108 rfl rfl hvs
      (by norm_num [List.map_cons, List.map_nil, List.sum_cons, List.sum_nil])
  obtain ⟨B4, R4, hU4, hB4, hR4⟩ :=
    streamT_decomp2 54 [(v0, 54), (v1, 54), (v2, 54), (v3, 54), (v4, 54), (v5, 54), (v6, 54), (v7, 54)] [(v0, 54), (v1, 54), (v2, 54), (v3, 54)] [(v6, 54), (v7, 54)] v4 v5 54 54 216 rfl rfl hvs
      (by norm_num [List.map_cons, List.map_nil, List.sum_cons, List.sum_nil])
  obtain ⟨B5, R5, hU5, hB5, hR5⟩ :=
    streamT_decomp2 54 [(v0, 54), (v1, 54), (v2, 54), (v3, 54), (v4, 54), (v5, 54), (v6, 54), (v7, 54)] [(v0, 54), (v1, 54), (v2, 54), (v3, 54), (v4, 54)] [(v7, 54)] v5 v6 54 54 270 rfl rfl hvs
      (by norm_num [List.map_cons, List.map_nil, List.sum_cons, List.sum_nil])
  obtain ⟨B6, R6, hU6, hB6, hR6⟩ :=
    streamT_decomp2 54 [(v0, 54), (v1, 54), (v2, 54), (v3, 54), (v4, 54), (v5, 54), (v6, 54), (v7, 54)] [(v0, 54), (v1, 54), (v2, 54), (v3, 54), (v4, 54), (v5, 54)] [] v6 v7 54 54 324 rfl rfl hvs
      (by norm_num [List.map_cons, List.map_nil, List.sum_cons, List.sum_nil])
  rw [key, key2]
  simp only [List.cons.injEq]
  refine ⟨?_, ?_, ?_, ?_, ?_, ?_, ?_, ?_, ?_, ?_, ?_, ?_, ?_, ?_, ?_, ?_, ?_, ?_, ?_, ?_, ?_, ?_, ?_, ?_, ?_, ?_, ?_, ?_, ?_, ?_, ?_, ?_, ?_, ?_, ?_, ?_, ?_, ?_, ?_, ?_, ?_, ?_, ?_, ?_, ?_, ?_, ?_, ?_, ?_, ?_, ?_, ?_, ?_, ?_, trivial⟩
  · rw [hT0]
    exact byteSpec_mid 54 A0 v0 S0 (8 * 54 - 0 - 54) 54 0 46 hA0 hS0
      (by norm_num) (by norm_num)
  · rw [hT0]
    exact byteSpec_mid 54 A0 v0 S0 (8 * 54 - 0 - 54) 54 1 38 hA0 hS0
      (by norm_num) (by norm_num)
  · rw [hT0]
    exact byteSpec_mid 54 A0 v0 S0 (8 * 54 - 0 - 54) 54 2 30 hA0 hS0
      (by norm_num) (by norm_num)
  · rw [hT0]
    exact byteSpec_mid 54 A0 v0 S0 (8 * 54 - 0 - 54) 54 3 22 hA0 hS0
      (by norm_num) (by norm_num)
  · rw [hT0]
    exact byteSpec_mid 54 A0 v0 S0 (8 * 54 - 0 - 54) 54 4 14 hA0 hS0
      (by norm_num) (by norm_num)
  · rw [hT0]
    exact byteSpec_mid 54 A0 v0 S0 (8 * 54 - 0 - 54) 54 5 6 hA0 hS0
      (by norm_num) (by norm_num)
  · rw [hU0]
    exact byteSpec_bnd 54 B0 v0 v1 R0 (8 * 54 - 0 - 54 - 54) 6 6 2 52 63 3 54 hB0 hv0 hv1 hR0
      (by norm_num) (by norm_num) (by norm_num) (by norm_num) (by norm_num)
  · rw [hT1]
    exact byteSpec_mid 54 A1 v1 S1 (8 * 54 - 54 - 54) 54 7 44 hA1 hS1
      (by norm_num) (by norm_num)
  · rw [hT1]
    exact byteSpec_mid 54 A1 v1 S1 (8 * 54 - 54 - 54) 54 8 36 hA1 hS1
      (by norm_num) (by norm_num)
  · rw [hT1]
    exact byteSpec_mid 54 A1 v1 S1 (8 * 54 - 54 - 54) 54 9 28 hA1 hS1
      (by norm_num) (by norm_num)
  · rw [hT1]
    exact byteSpec_mid 54 A1 v1 S1 (8 * 54 - 54 - 54) 54 10 20 hA1 hS1
      (by norm_num) (by norm_num)
  · rw [hT1]
    exact byteSpec_mid 54 A1 v1 S1 (8 * 54 - 54 - 54) 54 11 12 hA1 hS1
      (by norm_num) (by norm_num)
  · rw [hT1]
    exact byteSpec_mid 54 A1 v1 S1 (8 * 54 - 54 - 54) 54 12 4 hA1 hS1
      (by norm_num) (by norm_num)
  · rw [hU1]
    exact byteSpec_bnd 54 B1 v1 v2 R1 (8 * 54 - 54 - 54 - 54) 13 4 4 50 15 15 54 hB1 hv1 hv2 hR1
      (by norm_num) (by norm_num) (by norm_num) (by norm_num) (by norm_num)
  · rw [hT2]
    exact byteSpec_mid 54 A2 v2 S2 (8 * 54 - 108 - 54) 54 14 42 hA2 hS2
      (by norm_num) (by norm_num)
  · rw [hT2]
    exact byteSpec_mid 54 A2 v2 S2 (8 * 54 - 108 - 54) 54 15 34 hA2 hS2
      (by norm_num) (by norm_num)
  · rw [hT2]
    exact byteSpec_mid 54 A2 v2 S2 (8 * 54 - 108 - 54) 54 16 26 hA2 hS2
      (by norm_num) (by norm_num)
  · rw [hT2]
    exact byteSpec_mid 54 A2 v2 S2 (8 * 54 - 108 - 54) 54 17 18 hA2 hS2
      (by norm_num) (by norm_num)
  · rw [hT2]
    exact byteSpec_mid 54 A2 v2 S2 (8 * 54 - 108 - 54) 54 18 10 hA2 hS2
      (by norm_num) (by norm_num)
  · rw [hT2]
    exact byteSpec_mid 54 A2 v2 S2 (8 * 54 - 108 - 54) 54 19 2 hA2 hS2
      (by norm_num) (by norm_num)
  · rw [hU2]
    exact byteSpec_bnd 54 B2 v2 v3 R2 (8 * 54 - 108 - 54 - 54) 20 2 6 48 3 63 54 hB2 hv2 hv3 hR2
      (by norm_num) (by norm_num) (by norm_num) (by norm_num) (by norm_num)
  · rw [hT3]
    exact byteSpec_mid 54 A3 v3 S3 (8 * 54 - 162 - 54) 54 21 40 hA3 hS3
      (by norm_num) (by norm_num)
  · rw [hT3]
    exact byteSpec_mid 54 A3 v3 S3 (8 * 54 - 162 - 54) 54 22 32 hA3 hS3
      (by norm_num) (by norm_num)
  · rw [hT3]
    exact byteSpec_mid 54 A3 v3 S3 (8 * 54 - 162 - 54) 54 23 24 hA3 hS3
      (by norm_num) (by norm_num)
  · rw [hT3]
    exact byteSpec_mid 54 A3 v3 S3 (8 * 54 - 162 - 54) 54 24 16 hA3 hS3
      (by norm_num) (by norm_num)
  · rw [hT3]
    exact byteSpec_mid 54 A3 v3 S3 (8 * 54 - 162 - 54) 54 25 8 hA3 hS3
      (by norm_num) (by norm_num)
  · rw [hT3]
    exact byteSpec_mid0 54 A3 v3 S3 (8 * 54 - 162 - 54) 54 26 hA3 hS3
      (by norm_num) (by norm_num)
  · rw [hT4]
    exact byteSpec_mid 54 A4 v4 S4 (8 * 54 - 216 - 54) 54 27 46 hA4 hS4
      (by norm_num) (by norm_num)
  · rw [hT4]
    exact byteSpec_mid 54 A4 v4 S4 (8 * 54 - 216 - 54) 54 28 38 hA4 hS4
      (by norm_num) (by norm_num)
  · rw [hT4]
    exact byteSpec_mid 54 A4 v4 S4 (8 * 54 - 216 - 54) 54 29 30 hA4 hS4
      (by norm_num) (by norm_num)
  · rw [hT4]
    exact byteSpec_mid 54 A4 v4 S4 (8 * 54 - 216 - 54) 54 30 22 hA4 hS4
      (by norm_num) (by norm_num)
  · rw [hT4]
    exact byteSpec_mid 54 A4 v4 S4 (8 * 54 - 216 - 54) 54 31 14 hA4 hS4
      (by norm_num) (by norm_num)
  · rw [hT4]
    exact byteSpec_mid 54 A4 v4 S4 (8 * 54 - 216 - 54) 54 32 6 hA4 hS4
      (by norm_num) (by norm_num)
  · rw [hU4]
    exact byteSpec_bnd 54 B4 v4 v5 R4 (8 * 54 - 216 - 54 - 54) 33 6 2 52 63 3 54 hB4 hv4 hv5 hR4
      (by norm_num) (by norm_num) (by norm_num) (by norm_num) (by norm_num)
  · rw [hT5]
    exact byteSpec_mid 54 A5 v5 S5 (8 * 54 - 270 - 54) 54 34 44 hA5 hS5
      (by norm_num) (by norm_num)
  · rw [hT5]
    exact byteSpec_mid 54 A5 v5 S5 (8 * 54 - 270 - 54) 54 35 36 hA5 hS5
      (by norm_num) (by norm_num)
  · rw [hT5]
    exact byteSpec_mid 54 A5 v5 S5 (8 * 54 - 270 - 54) 54 36 28 hA5 hS5
      (by norm_num) (by norm_num)
  · rw [hT5]
    exact byteSpec_mid 54 A5 v5 S5 (8 * 54 - 270 - 54) 54 37 20 hA5 hS5
      (by norm_num) (by norm_num)
  · rw [hT5]
    exact byteSpec_mid 54 A5 v5 S5 (8 * 54 - 270 - 54) 54 38 12 hA5 hS5
      (by norm_num) (by norm_num)
  · rw [hT5]
    exact byteSpec_mid 54 A5 v5 S5 (8 * 54 - 270 - 54) 54 39 4 hA5 hS5
      (by norm_num) (by norm_num)
  · rw [hU5]
    exact byteSpec_bnd 54 B5 v5 v6 R5 (8 * 54 - 270 - 54 - 54) 40 4 4 50 15 15 54 hB5 hv5 hv6 hR5
      (by norm_num) (by norm_num) (by norm_num) (by norm_num) (by norm_num)
  · rw [hT6]
    exact byteSpec_mid 54 A6 v6 S6 (8 * 54 - 324 - 54) 54 41 42 hA6 hS6
      (by norm_num) (by norm_num)
  · rw [hT6]
    exact byteSpec_mid 54 A6 v6 S6 (8 * 54 - 324 - 54) 54 42 34 hA6 hS6
      (by norm_num) (by norm_num)
  · rw [hT6]
    exact byteSpec_mid 54 A6 v6 S6 (8 * 54 - 324 - 54) 54 43 26 hA6 hS6
      (by norm_num) (by norm_num)
  · rw [hT6]
    exact byteSpec_mid 54 A6 v6 S6 (8 * 54 - 324 - 54) 54 44 18 hA6 hS6
      (by norm_num) (by norm_num)
  · rw [hT6]
    exact byteSpec_mid 54 A6 v6 S6 (8 * 54 - 324 - 54) 54 45 10 hA6 hS6
      (by norm_num) (by norm_num)
  · rw [hT6]
    exact byteSpec_mid 54 A6 v6 S6 (8 * 54 - 324 - 54) 54 46 2 hA6 hS6
      (by norm_num) (by norm_num)
  · rw [hU6]
    exact byteSpec_bnd 54 B6 v6 v7 R6 (8 * 54 - 324 - 54 - 54) 47 2 6 48 3 63 54 hB6 hv6 hv7 hR6
      (by norm_num) (by norm_num) (by norm_num) (by norm_num) (by norm_num)
  · rw [hT7]
    exact byteSpec_mid 54 A7 v7 S7 (8 * 54 - 378 - 54) 54 48 40 hA7 hS7
      (by norm_num) (by norm_num)
  · rw [hT7]
    exact byteSpec_mid 54 A7 v7 S7 (8 * 54 - 378 - 54) 54 49 32 hA7 hS7
      (by norm_num) (by norm_num)
  · rw [hT7]
    exact byteSpec_mid 54 A7 v7 S7 (8 * 54 - 378 - 54) 54 50 24 hA7 hS7
      (by norm_num) (by norm_num)
  · rw [hT7]
    exact byteSpec_mid 54 A7 v7 S7 (8 * 54 - 378 - 54) 54 51 16 hA7 hS7
      (by norm_num) (by norm_num)
  · rw [hT7]
    exact byteSpec_mid 54 A7 v7 S7 (8 * 54 - 378 - 54) 54 52 8 hA7 hS7
      (by norm_num) (by norm_num)
  · rw [hT7]
    exact byteSpec_mid0 54 A7 v7 S7 (8 * 54 - 378 - 54) 54 53 hA7 hS7
      (by norm_num) (by norm_num)

set_option maxRecDepth 16000 in
set_option maxHeartbeats 1000000 in
theorem c5_pack_eq_55 (v0 v1 v2 v3 v4 v5 v6 v7 : Nat) (hv0 : v0 < 2 ^ 55) (hv1 : v1 < 2 ^ 55) (hv2 : v2 < 2 ^ 55) (hv3 : v3 < 2 ^ 55) (hv4 : v4 < 2 ^ 55) (hv5 : v5 < 2 ^ 55) (hv6 : v6 < 2 ^ 55) (hv7 : v7 < 2 ^ 55) :
    (packSeq (BitPacker.new (List.replicate 55 0)) [(v0, 55), (v1, 55), (v2, 55), (v3, 55), (v4, 55), (v5, 55), (v6, 55), (v7, 55)]).bytes
      = pack_bits_55 v0 v1 v2 v3 v4 v5 v6 v7 := by
  have hvs : ∀ p ∈ ([(v0, 55), (v1, 55), (v2, 55), (v3, 55), (v4, 55), (v5, 55), (v6, 55), (v7, 55)] : List (Nat × Nat)), p.1 < 2 ^ p.2 := by
    intro p hp
    simp only [List.mem_cons, List.not_mem_nil, or_false] at hp
    rcases hp with rfl | rfl | rfl | rfl | rfl | rfl | rfl | rfl
    exacts [hv0, hv1, hv2, hv3, hv4, hv5, hv6, hv7]
  obtain ⟨-, -, -, ⟨hlen, hbytes⟩, -, -⟩ :=
    packSeq_inv 55 [(v0, 55), (v1, 55), (v2, 55), (v3, 55), (v4, 55), (v5, 55), (v6, 55), (v7, 55)] 0 0 _ hvs
      (by norm_num [List.map_cons, List.map_nil, List.sum_cons, List.sum_nil]) (packInv_init 55)
  have key : (packSeq (BitPacker.new (List.replicate 55 0)) [(v0, 55), (v1, 55), (v2, 55), (v3, 55), (v4, 55), (v5, 55), (v6, 55), (v7, 55)]).bytes
      = [ ByteSpec 55 (streamT 55 [(v0, 55), (v1, 55), (v2, 55), (v3, 55), (v4, 55), (v5, 55), (v6, 55), (v7, 55)] 0 0) 0,
          ByteSpec 55 (streamT 55 [(v0, 55), (v1, 55), (v2, 55), (v3, 55), (v4, 55), (v5, 55), (v6, 55), (v7, 55)] 0 0) 1,
          ByteSpec 55 (streamT 55 [(v0, 55), (v1, 55), (v2, 55), (v3, 55), (v4, 55), (v5, 55), (v6, 55), (v7, 55)] 0 0) 2,
          ByteSpec 55 (streamT 55 [(v0, 55), (v1, 55), (v2, 55), (v3, 55), (v4, 55), (v5, 55), (v6, 55), (v7, 55)] 0 0) 3,
          ByteSpec 55 (streamT 55 [(v0, 55), (v1, 55), (v2, 55), (v3, 55), (v4, 55), (v5, 55), (v6, 55), (v7, 55)] 0 0) 4,
          ByteSpec 55 (streamT 55 [(v0, 55), (v1, 55), (v2, 55), (v3, 55), (v4, 55), (v5, 55), (v6, 55), (v7, 55)] 0 0) 5,
          ByteSpec 55 (streamT 55 [(v0, 55), (v1, 55), (v2, 55), (v3, 55), (v4, 55), (v5, 55), (v6, 55), (v7, 55)] 0 0) 6,
          ByteSpec 55 (streamT 55 [(v0, 55), (v1, 55), (v2, 55), (v3, 55), (v4, 55), (v5, 55), (v6, 55), (v7, 55)] 0 0) 7,
          ByteSpec 55 (streamT 55 [(v0, 55), (v1, 55), (v2, 55), (v3, 55), (v4, 55), (v5, 55), (v6, 55), (v7, 55)] 0 0) 8,
          ByteSpec 55 (streamT 55 [(v0, 55), (v1, 55), (v2, 55), (v3, 55), (v4, 55), (v5, 55), (v6, 55), (v7, 55)] 0 0) 9,
          ByteSpec 55 (streamT 55 [(v0, 55), (v1, 55), (v2, 55), (v3, 55), (v4, 55), (v5, 55), (v6, 55), (v7, 55)] 0 0) 10,
          ByteSpec 55 (streamT 55 [(v0, 55), (v1, 55), (v2, 55), (v3, 55), (v4, 55), (v5, 55), (v6, 55), (v7, 55)] 0 0) 11,
          ByteSpec 55 (streamT 55 [(v0, 55), (v1, 55), (v2, 55), (v3, 55), (v4, 55), (v5, 55), (v6, 55), (v7, 55)] 0 0) 12,
          ByteSpec 55 (streamT 55 [(v0, 55), (v1, 55), (v2, 55), (v3, 55), (v4, 55), (v5, 55), (v6, 55), (v7, 55)] 0 0) 13,
          ByteSpec 55 (streamT 55 [(v0, 55), (v1, 55), (v2, 55), (v3, 55), (v4, 55), (v5, 55), (v6, 55), (v7, 55)] 0 0) 14,
          ByteSpec 55 (streamT 55 [(v0, 55), (v1, 55), (v2, 55), (v3, 55), (v4, 55), (v5, 55), (v6, 55), (v7, 55)] 0 0) 15,
          ByteSpec 55 (streamT 55 [(v0, 55), (v1, 55), (v2, 55), (v3, 55), (v4, 55), (v5, 55), (v6, 55), (v7, 55)] 0 0) 16,
          ByteSpec 55 (streamT 55 [(v0, 55), (v1, 55), (v2, 55), (v3, 55), (v4, 55), (v5, 55), (v6, 55), (v7, 55)] 0 0) 17,
          ByteSpec 55 (streamT 55 [(v0, 55), (v1, 55), (v2, 55), (v3, 55), (v4, 55), (v5, 55), (v6, 55), (v7, 55)] 0 0) 18,
          ByteSpec 55 (streamT 55 [(v0, 55), (v1, 55), (v2, 55), (v3, 55), (v4, 55), (v5, 55), (v6, 55), (v7, 55)] 0 0) 19,
          ByteSpec 55 (streamT 55 [(v0, 55), (v1, 55), (v2, 55), (v3, 55), (v4, 55), (v5, 55), (v6, 55), (v7, 55)] 0 0) 20,
          ByteSpec 55 (streamT 55 [(v0, 55), (v1, 55), (v2, 55), (v3, 55), (v4, 55), (v5, 55), (v6, 55), (v7, 55)] 0 0) 21,
          ByteSpec 55 (streamT 55 [(v0, 55), (v1, 55), (v2, 55), (v3, 55), (v4, 55), (v5, 55), (v6, 55), (v7, 55)] 0 0) 22,
          ByteSpec 55 (streamT 55 [(v0, 55), (v1, 55), (v2, 55), (v3, 55), (v4, 55), (v5, 55), (v6, 55), (v7, 55)] 0 0) 23,
          ByteSpec 55 (streamT 55 [(v0, 55), (v1, 55), (v2, 55), (v3, 55), (v4, 55), (v5, 55), (v6, 55), (v7, 55)] 0 0) 24,
          ByteSpec 55 (streamT 55 [(v0, 55), (v1, 55), (v2, 55), (v3, 55), (v4, 55), (v5, 55), (v6, 55), (v7, 55)] 0 0) 25,
          ByteSpec 55 (streamT 55 [(v0, 55), (v1, 55), (v2, 55), (v3, 55), (v4, 55), (v5, 55), (v6, 55), (v7, 55)] 0 0) 26,
          ByteSpec 55 (streamT 55 [(v0, 55), (v1, 55), (v2, 55), (v3, 55), (v4, 55), (v5, 55), (v6, 55), (v7, 55)] 0 0) 27,
          ByteSpec 55 (streamT 55 [(v0, 55), (v1, 55), (v2, 55), (v3, 55), (v4, 55), (v5, 55), (v6, 55), (v7, 55)] 0 0) 28,
          ByteSpec 55 (streamT 55 [(v0, 55), (v1, 55), (v2, 55), (v3, 55), (v4, 55), (v5, 55), (v6, 55), (v7, 55)] 0 0) 29,
          ByteSpec 55 (streamT 55 [(v0, 55), (v1, 55), (v2, 55), (v3, 55), (v4, 55), (v5, 55), (v6, 55), (v7, 55)] 0 0) 30,
          ByteSpec 55 (streamT 55 [(v0, 55), (v1, 55), (v2, 55), (v3, 55), (v4, 55), (v5, 55), (v6, 55), (v7, 55)] 0 0) 31,
          ByteSpec 55 (streamT 55 [(v0, 55), (v1, 55), (v2, 55), (v3, 55), (v4, 55), (v5, 55), (v6, 55), (v7, 55)] 0 0) 32,
          ByteSpec 55 (streamT 55 [(v0, 55), (v1, 55), (v2, 55), (v3, 55), (v4, 55), (v5, 55), (v6, 55), (v7, 55)] 0 0) 33,
          ByteSpec 55 (streamT 55 [(v0, 55), (v1, 55), (v2, 55), (v3, 55), (v4, 55), (v5, 55), (v6, 55), (v7, 55)] 0 0) 34,
          ByteSpec 55 (streamT 55 [(v0, 55), (v1, 55), (v2, 55), (v3, 55), (v4, 55), (v5, 55), (v6, 55), (v7, 55)] 0 0) 35,
          ByteSpec 55 (streamT 55 [(v0, 55), (v1, 55), (v2, 55), (v3, 55), (v4, 55), (v5, 55), (v6, 55), (v7, 55)] 0 0) 36,
          ByteSpec 55 (streamT 55 [(v0, 55), (v1, 55), (v2, 55), (v3, 55), (v4, 55), (v5, 55), (v6, 55), (v7, 55)] 0 0) 37,
          ByteSpec 55 (streamT 55 [(v0, 55), (v1, 55), (v2, 55), (v3, 55), (v4, 55), (v5, 55), (v6, 55), (v7, 55)] 0 0) 38,
          ByteSpec 55 (streamT 55 [(v0, 55), (v1, 55), (v2, 55), (v3, 55), (v4, 55), (v5, 55), (v6, 55), (v7, 55)] 0 0) 39,
          ByteSpec 55 (streamT 55 [(v0, 55), (v1, 55), (v2, 55), (v3, 55), (v4, 55), (v5, 55), (v6, 55), (v7, 55)] 0 0) 40,
          ByteSpec 55 (streamT 55 [(v0, 55), (v1, 55), (v2, 55), (v3, 55), (v4, 55), (v5, 55), (v6, 55), (v7, 55)] 0 0) 41,
          ByteSpec 55 (streamT 55 [(v0, 55), (v1, 55), (v2, 55), (v3, 55), (v4, 55), (v5, 55), (v6, 55), (v7, 55)] 0 0) 42,
          ByteSpec 55 (streamT 55 [(v0, 55), (v1, 55), (v2, 55), (v3, 55), (v4, 55), (v5, 55), (v6, 55), (v7, 55)] 0 0) 43,
          ByteSpec 55 (streamT 55 [(v0, 55), (v1, 55), (v2, 55), (v3, 55), (v4, 55), (v5, 55), (v6, 55), (v7, 55)] 0 0) 44,
          ByteSpec 55 (streamT 55 [(v0, 55), (v1, 55), (v2, 55), (v3, 55), (v4, 55), (v5, 55), (v6, 55), (v7, 55)] 0 0) 45,
          ByteSpec 55 (streamT 55 [(v0, 55), (v1, 55), (v2, 55), (v3, 55), (v4, 55), (v5, 55), (v6, 55), (v7, 55)] 0 0) 46,
          ByteSpec 55 (streamT 55 [(v0, 55), (v1, 55), (v2, 55), (v3, 55), (v4, 55), (v5, 55), (v6, 55), (v7, 55)] 0 0) 47,
          ByteSpec 55 (streamT 55 [(v0, 55), (v1, 55), (v2, 55), (v3, 55), (v4, 55), (v5, 55), (v6, 55), (v7, 55)] 0 0) 48,
          ByteSpec 55 (streamT 55 [(v0, 55), (v1, 55), (v2, 55), (v3, 55), (v4, 55), (v5, 55), (v6, 55), (v7, 55)] 0 0) 49,
          ByteSpec 55 (streamT 55 [(v0, 55), (v1, 55), (v2, 55), (v3, 55), (v4, 55), (v5, 55), (v6, 55), (v7, 55)] 0 0) 50,
          ByteSpec 55 (streamT 55 [(v0, 55), (v1, 55), (v2, 55), (v3, 55), (v4, 55), (v5, 55), (v6, 55), (v7, 55)] 0 0) 51,
          ByteSpec 55 (streamT 55 [(v0, 55), (v1, 55), (v2, 55), (v3, 55), (v4, 55), (v5, 55), (v6, 55), (v7, 55)] 0 0) 52,
          ByteSpec 55 (streamT 55 [(v0, 55), (v1, 55), (v2, 55), (v3, 55), (v4, 55), (v5, 55), (v6, 55), (v7, 55)] 0 0) 53,
          ByteSpec 55 (streamT 55 [(v0, 55), (v1, 55), (v2, 55), (v3, 55), (v4, 55), (v5, 55), (v6, 55), (v7, 55)] 0 0) 54 ] :=
    (list_eq_map_range_of_getD _ _ 55 hlen hbytes).trans (by rfl)
  have key2 : pack_bits_55 v0 v1 v2 v3 v4 v5 v6 v7
      = [ u8 (((v0 >>> 47) &&& 0xff)),
          u8 (((v0 >>> 39) &&& 0xff)),
          u8 (((v0 >>> 31) &&& 0xff)),
          u8 (((v0 >>> 23) &&& 0xff)),
          u8 (((v0 >>> 15) &&& 0xff)),
          u8 (((v0 >>> 7) &&& 0xff)),
          u8 (((((v0) &&& 0x7f) <<< 1) ||| ((v1 >>> 54) &&& 0x1))),
          u8 (((v1 >>> 46) &&& 0xff)),
          u8 (((v1 >>> 38) &&& 0xff)),
          u8 (((v1 >>> 30) &&& 0xff)),
          u8 (((v1 >>> 22) &&& 0xff)),
          u8 (((v1 >>> 14) &&& 0xff)),
          u8 (((v1 >>> 6) &&& 0xff)),
          u8 (((((v1) &&& 0x3f) <<< 2) ||| ((v2 >>> 53) &&& 0x3))),
          u8 (((v2 >>> 45) &&& 0xff)),
          u8 (((v2 >>> 37) &&& 0xff)),
          u8 (((v2 >>> 29) &&& 0xff)),
          u8 (((v2 >>> 21) &&& 0xff)),
          u8 (((v2 >>> 13) &&& 0xff)),
          u8 (((v2 >>> 5) &&& 0xff)),
          u8 (((((v2) &&& 0x1f) <<< 3) ||| ((v3 >>> 52) &&& 0x7))),
          u8 (((v3 >>> 44) &&& 0xff)),
          u8 (((v3 >>> 36) &&& 0xff)),
          u8 (((v3 >>> 28) &&& 0xff)),
          u8 (((v3 >>> 20) &&& 0xff)),
          u8 (((v3 >>> 12) &&& 0xff)),
          u8 (((v3 >>> 4) &&& 0xff)),
          u8 (((((v3) &&& 0xf) <<< 4) ||| ((v4 >>> 51) &&& 0xf))),
          u8 (((v4 >>> 43) &&& 0xff)),
          u8 (((v4 >>> 35) &&& 0xff)),
          u8 (((v4 >>> 27) &&& 0xff)),
          u8 (((v4 >>> 19) &&& 0xff)),
          u8 (((v4 >>> 11) &&& 0xff)),
          u8 (((v4 >>> 3) &&& 0xff)),
          u8 (((((v4) &&& 0x7) <<< 5) ||| ((v5 >>> 50) &&& 0x1f))),
          u8 (((v5 >>> 42) &&& 0xff)),
          u8 (((v5 >>> 34) &&& 0xff)),
          u8 (((v5 >>> 26) &&& 0xff)),
          u8 (((v5 >>> 18) &&& 0xff)),
          u8 (((v5 >>> 10) &&& 0xff)),
          u8 (((v5 >>> 2) &&& 0xff)),
          u8 (((((v5) &&& 0x3) <<< 6) ||| ((v6 >>> 49) &&& 0x3f))),
          u8 (((v6 >>> 41) &&& 0xff)),
          u8 (((v6 >>> 33) &&& 0xff)),
          u8 (((v6 >>> 25) &&& 0xff)),
          u8 (((v6 >>> 17) &&& 0xff)),
          u8 (((v6 >>> 9) &&& 0xff)),
          u8 (((v6 >>> 1) &&& 0xff)),
          u8 (((((v6) &&& 0x1) <<< 7) ||| ((v7 >>> 48) &&& 0x7f))),
          u8 (((v7 >>> 40) &&& 0xff)),
          u8 (((v7 >>> 32) &&& 0xff)),
          u8 (((v7 >>> 24) &&& 0xff)),
          u8 (((v7 >>> 16) &&& 0xff)),
          u8 (((v7 >>> 8) &&& 0xff)),
          u8 (((v7) &&& 0xff)) ] := rfl
  obtain ⟨A0, S0, hT0, hA0, hS0⟩ :=
    streamT_decomp 55 [(v0, 55), (v1, 55), (v2, 55), (v3, 55), (v4, 55), (v5, 55), (v6, 55), (v7, 55)] [] [(v1, 55), (v2, 55), (v3, 55), (v4, 55), (v5, 55), (v6, 55), (v7, 55)] v0 55 0 rfl rfl hvs
      (by norm_num [List.map_cons, List.map_nil, List.sum_cons, List.sum_nil])
  obtain ⟨A1, S1, hT1, hA1, hS1⟩ :=
    streamT_decomp 55 [(v0, 55), (v1, 55), (v2, 55), (v3, 55), (v4, 55), (v5, 55), (v6, 55), (v7, 55)] [(v0, 55)] [(v2, 55), (v3, 55), (v4, 55), (v5, 55), (v6, 55), (v7, 55)] v1 55 55 rfl rfl hvs
      (by norm_num [List.map_cons, List.map_nil, List.sum_cons, List.sum_nil])
  obtain ⟨A2, S2, hT2, hA2, hS2⟩ :=
    streamT_decomp 55 [(v0, 55), (v1, 55), (v2, 55), (v3, 55), (v4, 55), (v5, 55), (v6, 55), (v7, 55)] [(v0, 55), (v1, 55)] [(v3, 55), (v4, 55), (v5, 55), (v6, 55), (v7, 55)] v2 55 110 rfl rfl hvs
      (by norm_num [List.map_cons, List.map_nil, List.sum_cons, List.sum_nil])
  obtain ⟨A3, S3, hT3, hA3, hS3⟩ :=
    streamT_decomp 55 [(v0, 55), (v1, 55), (v2, 55), (v3, 55), (v4, 55), (v5, 55), (v6, 55), (v7, 55)] [(v0, 55), (v1, 55), (v2, 55)] [(v4, 55), (v5, 55), (v6, 55), (v7, 55)] v3 55 165 rfl rfl hvs
      (by norm_num [List.map_cons, List.map_nil, List.sum_cons, List.sum_nil])
  obtain ⟨A4, S4, hT4, hA4, hS4⟩ :=
    streamT_decomp 55 [(v0, 55), (v1, 55), (v2, 55), (v3, 55), (v4, 55), (v5, 55), (v6, 55), (v7, 55)] [(v0, 55), (v1, 55), (v2, 55), (v3, 55)] [(v5, 55), (v6, 55), (v7, 55)] v4 55 220 rfl rfl hvs
      (by norm_num [List.map_cons, List.map_nil, List.sum_cons, List.sum_nil])
  obtain ⟨A5, S5, hT5, hA5, hS5⟩ :=
    streamT_decomp 55 [(v0, 55), (v1, 55), (v2, 55), (v3, 55), (v4, 55), (v5, 55), (v6, 55), (v7, 55)] [(v0, 55), (v1, 55), (v2, 55), (v3, 55), (v4, 55)] [(v6, 55), (v7, 55)] v5 55 275 rfl rfl hvs
      (by norm_num [List.map_cons, List.map_nil, List.sum_cons, List.sum_nil])
  obtain ⟨A6, S6, hT6, hA6, hS6⟩ :=
    streamT_decomp 55 [(v0, 55), (v1, 55), (v2, 55), (v3, 55), (v4, 55), (v5, 55), (v6, 55), (v7, 55)] [(v0, 55), (v1, 55), (v2, 55), (v3, 55), (v4, 55), (v5, 55)] [(v7, 55)] v6 55 330 rfl rfl hvs
      (by norm_num [List.map_cons, List.map_nil, List.sum_cons, List.sum_nil])
  obtain ⟨A7, S7, hT7, hA7, hS7⟩ :=
    streamT_decomp 55 [(v0, 55), (v1, 55), (v2, 55), (v3, 55), (v4, 55), (v5, 55), (v6, 55), (v7, 55)] [(v0, 55), (v1, 55), (v2, 55), (v3, 55), (v4, 55), (v5, 55), (v6, 55)] [] v7 55 385 rfl rfl hvs
      (by norm_num [List.map_cons, List.map_nil, List.sum_cons, List.sum_nil])
  obtain ⟨B0, R0, hU0, hB0, hR0⟩ :=
    streamT_decomp2 55 [(v0, 55), (v1, 55), (v2, 55), (v3, 55), (v4, 55), (v5, 55), (v6, 55), (v7, 55)] [] [(v2, 55), (v3, 55), (v4, 55), (v5, 55), (v6, 55), (v7, 55)] v0 v1 55 55 0 rfl rfl hvs
      (by norm_num [List.map_cons, List.map_nil, List.sum_cons, List.sum_nil])
  obtain ⟨B1, R1, hU1, hB1, hR1⟩ :=
    streamT_decomp2 55 [(v0, 55), (v1, 55), (v2, 55), (v3, 55), (v4, 55), (v5, 55), (v6, 55), (v7, 55)] [(v0, 55)] [(v3, 55), (v4, 55), (v5, 55), (v6, 55), (v7, 55)] v1 v2 55 55 55 rfl rfl hvs
      (by norm_num [List.map_cons, List.map_nil, List.sum_cons, List.sum_nil])
  obtain ⟨B2, R2, hU2, hB2, hR2⟩ :=
    streamT_decomp2 55 [(v0, 55), (v1, 55), (v2, 55), (v3, 55), (v4, 55), (v5, 55), (v6, 55), (v7, 55)] [(v0, 55), (v1, 55)] [(v4, 55), (v5, 55), (v6, 55), (v7, 55)] v2 v3 55 55 110 rfl rfl hvs
      (by norm_num [List.map_cons, List.map_nil, List.sum_cons, List.sum_nil])
  obtain ⟨B3, R3, hU3, hB3, hR3⟩ :=
    streamT_decomp2 55 [(v0, 55), (v1, 55), (v2, 55), (v3, 55), (v4, 55), (v5, 55), (v6, 55), (v7, 55)] [(v0, 55), (v1, 55), (v2, 55)] [(v5, 55), (v6, 55), (v7, 55)] v3 v4 55 55 165 rfl rfl hvs
      (by norm_num [List.map_cons, List.map_nil, List.sum_cons, List.sum_nil])
  obtain ⟨B4, R4, hU4, hB4, hR4⟩ :=
    streamT_decomp2 55 [(v0, 55), (v1, 55), (v2, 55), (v3, 55), (v4, 55), (v5, 55), (v6, 55), (v7, 55)] [(v0, 55), (v1, 55), (v2, 55), (v3, 55)] [(v6, 55), (v7, 55)] v4 v5 55 55 220 rfl rfl hvs
      (by norm_num [List.map_cons, List.map_nil, List.sum_cons, List.sum_nil])
  obtain ⟨B5, R5, hU5, hB5, hR5⟩ :=
    streamT_decomp2 55 [(v0, 55), (v1, 55), (v2, 55), (v3, 55), (v4, 55), (v5, 55), (v6, 55), (v7, 55)] [(v0, 55), (v1, 55), (v2, 55), (v3, 55), (v4, 55)] [(v7, 55)] v5 v6 55 55 275 rfl rfl hvs
      (by norm_num [List.map_cons, List.map_nil, List.sum_cons, List.sum_nil])
  obtain ⟨B6, R6, hU6, hB6, hR6⟩ :=
    streamT_decomp2 55 [(v0, 55), (v1, 55), (v2, 55), (v3, 55), (v4, 55), (v5, 55), (v6, 55), (v7, 55)] [(v0, 55), (v1, 55), (v2, 55), (v3, 55), (v4, 55), (v5, 55)] [] v6 v7 55 55 330 rfl rfl hvs
      (by norm_num [List.map_cons, List.map_nil, List.sum_cons, List.sum_nil])
  rw [key, key2]
  simp only [List.cons.injEq]
  refine ⟨?_, ?_, ?_, ?_, ?_, ?_, ?_, ?_, ?_, ?_, ?_, ?_, ?_, ?_, ?_, ?_, ?_, ?_, ?_, ?_, ?_, ?_, ?_, ?_, ?_, ?_, ?_, ?_, ?_, ?_, ?_, ?_, ?_, ?_, ?_, ?_, ?_, ?_, ?_, ?_, ?_, ?_, ?_, ?_, ?_, ?_, ?_, ?_, ?_, ?_, ?_, ?_, ?_, ?_, ?_, trivial⟩
  · rw [hT0]
    exact byteSpec_mid 55 A0 v0 S0 (8 * 55 - 0 - 55) 55 0 47 hA0 hS0
      (by norm_num) (by norm_num)
  · rw [hT0]
    exact byteSpec_mid 55 A0 v0 S0 (8 * 55 - 0 - 55) 55 1 39 hA0 hS0
      (by norm_num) (by norm_num)
  · rw [hT0]
    exact byteSpec_mid 55 A0 v0 S0 (8 * 55 - 0 - 55) 55 2 31 hA0 hS0
      (by norm_num) (by norm_num)
  · rw [hT0]
    exact byteSpec_mid 55 A0 v0 S0 (8 * 55 - 0 - 55) 55 3 23 hA0 hS0
      (by norm_num) (by norm_num)
  · rw [hT0]
    exact byteSpec_mid 55 A0 v0 S0 (8 * 55 - 0 - 55) 55 4 15 hA0 hS0
      (by norm_num) (by norm_num)
  · rw [hT0]
    exact byteSpec_mid 55 A0 v0 S0 (8 * 55 - 0 - 55) 55 5 7 hA0 hS0
      (by norm_num) (by norm_num)
  · rw [hU0]
    exact byteSpec_bnd 55 B0 v0 v1 R0 (8 * 55 - 0 - 55 - 55) 6 7 1 54 127 1 55 hB0 hv0 hv1 hR0
      (by norm_num) (by norm_num) (by norm_num) (by norm_num) (by norm_num)
  · rw [hT1]
    exact byteSpec_mid 55 A1 v1 S1 (8 * 55 - 55 - 55) 55 7 46 hA1 hS1
      (by norm_num) (by norm_num)
  · rw [hT1]
    exact byteSpec_mid 55 A1 v1 S1 (8 * 55 - 55 - 55) 55 8 38 hA1 hS1
      (by norm_num) (by norm_num)
  · rw [hT1]
    exact byteSpec_mid 55 A1 v1 S1 (8 * 55 - 55 - 55) 55 9 30 hA1 hS1
      (by norm_num) (by norm_num)
  · rw [hT1]
    exact byteSpec_mid 55 A1 v1 S1 (8 * 55 - 55 - 55) 55 10 22 hA1 hS1
      (by norm_num) (by norm_num)
  · rw [hT1]
    exact byteSpec_mid 55 A1 v1 S1 (8 * 55 - 55 - 55) 55 11 14 hA1 hS1
      (by norm_num) (by norm_num)
  · rw [hT1]
    exact byteSpec_mid 55 A1 v1 S1 (8 * 55 - 55 - 55) 55 12 6 hA1 hS1
      (by norm_num) (by norm_num)
  · rw [hU1]
    exact byteSpec_bnd 55 B1 v1 v2 R1 (8 * 55 - 55 - 55 - 55) 13 6 2 53 63 3 55 hB1 hv1 hv2 hR1
      (by norm_num) (by norm_num) (by norm_num) (by norm_num) (by norm_num)
  · rw [hT2]
    exact byteSpec_mid 55 A2 v2 S2 (8 * 55 - 110 - 55) 55 14 45 hA2 hS2
      (by norm_num) (by norm_num)
  · rw [hT2]
    exact byteSpec_mid 55 A2 v2 S2 (8 * 55 - 110 - 55) 55 15 37 hA2 hS2
      (by norm_num) (by norm_num)
  · rw [hT2]
    exact byteSpec_mid 55 A2 v2 S2 (8 * 55 - 110 - 55) 55 16 29 hA2 hS2
      (by norm_num) (by norm_num)
  · rw [hT2]
    exact byteSpec_mid 55 A2 v2 S2 (8 * 55 - 110 - 55) 55 17 21 hA2 hS2
      (by norm_num) (by norm_num)
  · rw [hT2]
    exact byteSpec_mid 55 A2 v2 S2 (8 * 55 - 110 - 55) 55 18 13 hA2 hS2
      (by norm_num) (by norm_num)
  · rw [hT2]
    exact byteSpec_mid 55 A2 v2 S2 (8 * 55 - 110 - 55) 55 19 5 hA2 hS2
      (by norm_num) (by norm_num)
  · rw [hU2]
    exact byteSpec_bnd 55 B2 v2 v3 R2 (8 * 55 - 110 - 55 - 55) 20 5 3 52 31 7 55 hB2 hv2 hv3 hR2
      (by norm_num) (by norm_num) (by norm_num) (by norm_num) (by norm_num)
  · rw [hT3]
    exact byteSpec_mid 55 A3 v3 S3 (8 * 55 - 165 - 55) 55 21 44 hA3 hS3
      (by norm_num) (by norm_num)
  · rw [hT3]
    exact byteSpec_mid 55 A3 v3 S3 (8 * 55 - 165 - 55) 55 22 36 hA3 hS3
      (by norm_num) (by norm_num)
  · rw [hT3]
    exact byteSpec_mid 55 A3 v3 S3 (8 * 55 - 165 - 55) 55 23 28 hA3 hS3
      (by norm_num) (by norm_num)
  · rw [hT3]
    exact byteSpec_mid 55 A3 v3 S3 (8 * 55 - 165 - 55) 55 24 20 hA3 hS3
      (by norm_num) (by norm_num)
  · rw [hT3]
    exact byteSpec_mid 55 A3 v3 S3 (8 * 55 - 165 - 55) 55 25 12 hA3 hS3
      (by norm_num) (by norm_num)
  · rw [hT3]
    exact byteSpec_mid 55 A3 v3 S3 (8 * 55 - 165 - 55) 55 26 4 hA3 hS3
      (by norm_num) (by norm_num)
  · rw [hU3]
    exact byteSpec_bnd 55 B3 v3 v4 R3 (8 * 55 - 165 - 55 - 55) 27 4 4 51 15 15 55 hB3 hv3 hv4 hR3
      (by norm_num) (by norm_num) (by norm_num) (by norm_num) (by norm_num)
  · rw [hT4]
    exact byteSpec_mid 55 A4 v4 S4 (8 * 55 - 220 - 55) 55 28 43 hA4 hS4
      (by norm_num) (by norm_num)
  · rw [hT4]
    exact byteSpec_mid 55 A4 v4 S4 (8 * 55 - 220 - 55) 55 29 35 hA4 hS4
      (by norm_num) (by norm_num)
  · rw [hT4]
    exact byteSpec_mid 55 A4 v4 S4 (8 * 55 - 220 - 55) 55 30 27 hA4 hS4
      (by norm_num) (by norm_num)
  · rw [hT4]
    exact byteSpec_mid 55 A4 v4 S4 (8 * 55 - 220 - 55) 55 31 19 hA4 hS4
      (by norm_num) (by norm_num)
  · rw [hT4]
    exact byteSpec_mid 55 A4 v4 S4 (8 * 55 - 220 - 55) 55 32 11 hA4 hS4
      (by norm_num) (by norm_num)
  · rw [hT4]
    exact byteSpec_mid 55 A4 v4 S4 (8 * 55 - 220 - 55) 55 33 3 hA4 hS4
      (by norm_num) (by norm_num)
  · rw [hU4]
    exact byteSpec_bnd 55 B4 v4 v5 R4 (8 * 55 - 220 - 55 - 55) 34 3 5 50 7 31 55 hB4 hv4 hv5 hR4
      (by norm_num) (by norm_num) (by norm_num) (by norm_num) (by norm_num)
  · rw [hT5]
    exact byteSpec_mid 55 A5 v5 S5 (8 * 55 - 275 - 55) 55 35 42 hA5 hS5
      (by norm_num) (by norm_num)
  · rw [hT5]
    exact byteSpec_mid 55 A5 v5 S5 (8 * 55 - 275 - 55) 55 36 34 hA5 hS5
      (by norm_num) (by norm_num)
  · rw [hT5]
    exact byteSpec_mid 55 A5 v5 S5 (8 * 55 - 275 - 55) 55 37 26 hA5 hS5
      (by norm_num) (by norm_num)
  · rw [hT5]
    exact byteSpec_mid 55 A5 v5 S5 (8 * 55 - 275 - 55) 55 38 18 hA5 hS5
      (by norm_num) (by norm_num)
  · rw [hT5]
    exact byteSpec_mid 55 A5 v5 S5 (8 * 55 - 275 - 55) 55 39 10 hA5 hS5
      (by norm_num) (by norm_num)
  · rw [hT5]
    exact byteSpec_mid 55 A5 v5 S5 (8 * 55 - 275 - 55) 55 40 2 hA5 hS5
      (by norm_num) (by norm_num)
  · rw [hU5]
    exact byteSpec_bnd 55 B5 v5 v6 R5 (8 * 55 - 275 - 55 - 55) 41 2 6 49 3 63 55 hB5 hv5 hv6 hR5
      (by norm_num) (by norm_num) (by norm_num) (by norm_num) (by norm_num)
  · rw [hT6]
    exact byteSpec_mid 55 A6 v6 S6 (8 * 55 - 330 - 55) 55 42 41 hA6 hS6
      (by norm_num) (by norm_num)
  · rw [hT6]
    exact byteSpec_mid 55 A6 v6 S6 (8 * 55 - 330 - 55) 55 43 33 hA6 hS6
      (by norm_num) (by norm_num)
  · rw [hT6]
    exact byteSpec_mid 55 A6 v6 S6 (8 * 55 - 330 - 55) 55 44 25 hA6 hS6
      (by norm_num) (by norm_num)
  · rw [hT6]
    exact byteSpec_mid 55 A6 v6 S6 (8 * 55 - 330 - 55) 55 45 17 hA6 hS6
      (by norm_num) (by norm_num)
  · rw [hT6]
    exact byteSpec_mid 55 A6 v6 S6 (8 * 55 - 330 - 55) 55 46 9 hA6 hS6
      (by norm_num) (by norm_num)
  · rw [hT6]
    exact byteSpec_mid 55 A6 v6 S6 (8 * 55 - 330 - 55) 55 47 1 hA6 hS6
      (by norm_num) (by norm_num)
  · rw [hU6]
    exact byteSpec_bnd 55 B6 v6 v7 R6 (8 * 55 - 330 - 55 - 55) 48 1 7 48 1 127 55 hB6 hv6 hv7 hR6
      (by norm_num) (by norm_num) (by norm_num) (by norm_num) (by norm_num)
  · rw [hT7]
    exact byteSpec_mid 55 A7 v7 S7 (8 * 55 - 385 - 55) 55 49 40 hA7 hS7
      (by norm_num) (by norm_num)
  · rw [hT7]
    exact byteSpec_mid 55 A7 v7 S7 (8 * 55 - 385 - 55) 55 50 32 hA7 hS7
      (by norm_num) (by norm_num)
  · rw [hT7]
    exact byteSpec_mid 55 A7 v7 S7 (8 * 55 - 385 - 55) 55 51 24 hA7 hS7
      (by norm_num) (by norm_num)
  · rw [hT7]
    exact byteSpec_mid 55 A7 v7 S7 (8 * 55 - 385 - 55) 55 52 16 hA7 hS7
      (by norm_num) (by norm_num)
  · rw [hT7]
    exact byteSpec_mid 55 A7 v7 S7 (8 * 55 - 385 - 55) 55 53 8 hA7 hS7
      (by norm_num) (by norm_num)
  · rw [hT7]
    exact byteSpec_mid0 55 A7 v7 S7 (8 * 55 - 385 - 55) 55 54 hA7 hS7
      (by norm_num) (by norm_num)

set_option maxRecDepth 16000 in
set_option maxHeartbeats 1000000 in
theorem c5_pack_eq_56 (v0 v1 v2 v3 v4 v5 v6 v7 : Nat) (hv0 : v0 < 2 ^ 56) (hv1 : v1 < 2 ^ 56) (hv2 : v2 < 2 ^ 56) (hv3 : v3 < 2 ^ 56) (hv4 : v4 < 2 ^ 56) (hv5 : v5 < 2 ^ 56) (hv6 : v6 < 2 ^ 56) (hv7 : v7 < 2 ^ 56) :
    (packSeq (BitPacker.new (List.replicate 56 0)) [(v0, 56), (v1, 56), (v2, 56), (v3, 56), (v4, 56), (v5, 56), (v6, 56), (v7, 56)]).bytes
      = pack_bits_56 v0 v1 v2 v3 v4 v5 v6 v7 := by
  have hvs : ∀ p ∈ ([(v0, 56), (v1, 56), (v2, 56), (v3, 56), (v4, 56), (v5, 56), (v6, 56), (v7, 56)] : List (Nat × Nat)), p.1 < 2 ^ p.2 := by
    intro p hp
    simp only [List.mem_cons, List.not_mem_nil, or_false] at hp
    rcases hp with rfl | rfl | rfl | rfl | rfl | rfl | rfl | rfl
    exacts [hv0, hv1, hv2, hv3, hv4, hv5, hv6, hv7]
  obtain ⟨-, -, -, ⟨hlen, hbytes⟩, -, -⟩ :=
    packSeq_inv 56 [(v0, 56), (v1, 56), (v2, 56), (v3, 56), (v4, 56), (v5, 56), (v6, 56), (v7, 56)] 0 0 _ hvs
      (by norm_num [List.map_cons, List.map_nil, List.sum_cons, List.sum_nil]) (packInv_init 56)
  have key : (packSeq (BitPacker.new (List.replicate 56 0)) [(v0, 56), (v1, 56), (v2, 56), (v3, 56), (v4, 56), (v5, 56), (v6, 56), (v7, 56)]).bytes
      = [ ByteSpec 56 (streamT 56 [(v0, 56), (v1, 56), (v2, 56), (v3, 56), (v4, 56), (v5, 56), (v6, 56), (v7, 56)] 0 0) 0,
          ByteSpec 56 (streamT 56 [(v0, 56), (v1, 56), (v2, 56), (v3, 56), (v4, 56), (v5, 56), (v6, 56), (v7, 56)] 0 0) 1,
          ByteSpec 56 (streamT 56 [(v0, 56), (v1, 56), (v2, 56), (v3, 56), (v4, 56), (v5, 56), (v6, 56), (v7, 56)] 0 0) 2,
          ByteSpec 56 (streamT 56 [(v0, 56), (v1, 56), (v2, 56), (v3, 56), (v4, 56), (v5, 56), (v6, 56), (v7, 56)] 0 0) 3,
          ByteSpec 56 (streamT 56 [(v0, 56), (v1, 56), (v2, 56), (v3, 56), (v4, 56), (v5, 56), (v6, 56), (v7, 56)] 0 0) 4,
          ByteSpec 56 (streamT 56 [(v0, 56), (v1, 56), (v2, 56), (v3, 56), (v4, 56), (v5, 56), (v6, 56), (v7, 56)] 0 0) 5,
          ByteSpec 56 (streamT 56 [(v0, 56), (v1, 56), (v2, 56), (v3, 56), (v4, 56), (v5, 56), (v6, 56), (v7, 56)] 0 0) 6,
          ByteSpec 56 (streamT 56 [(v0, 56), (v1, 56), (v2, 56), (v3, 56), (v4, 56), (v5, 56), (v6, 56), (v7, 56)] 0 0) 7,
          ByteSpec 56 (streamT 56 [(v0, 56), (v1, 56), (v2, 56), (v3, 56), (v4, 56), (v5, 56), (v6, 56), (v7, 56)] 0 0) 8,
          ByteSpec 56 (streamT 56 [(v0, 56), (v1, 56), (v2, 56), (v3, 56), (v4, 56), (v5, 56), (v6, 56), (v7, 56)] 0 0) 9,
          ByteSpec 56 (streamT 56 [(v0, 56), (v1, 56), (v2, 56), (v3, 56), (v4, 56), (v5, 56), (v6, 56), (v7, 56)] 0 0) 10,
          ByteSpec 56 (streamT 56 [(v0, 56), (v1, 56), (v2, 56), (v3, 56), (v4, 56), (v5, 56), (v6, 56), (v7, 56)] 0 0) 11,
          ByteSpec 56 (streamT 56 [(v0, 56), (v1, 56), (v2, 56), (v3, 56), (v4, 56), (v5, 56), (v6, 56), (v7, 56)] 0 0) 12,
          ByteSpec 56 (streamT 56 [(v0, 56), (v1, 56), (v2, 56), (v3, 56), (v4, 56), (v5, 56), (v6, 56), (v7, 56)] 0 0) 13,
          ByteSpec 56 (streamT 56 [(v0, 56), (v1, 56), (v2, 56), (v3, 56), (v4, 56), (v5, 56), (v6, 56), (v7, 56)] 0 0) 14,
          ByteSpec 56 (streamT 56 [(v0, 56), (v1, 56), (v2, 56), (v3, 56), (v4, 56), (v5, 56), (v6, 56), (v7, 56)] 0 0) 15,
          ByteSpec 56 (streamT 56 [(v0, 56), (v1, 56), (v2, 56), (v3, 56), (v4, 56), (v5, 56), (v6, 56), (v7, 56)] 0 0) 16,
          ByteSpec 56 (streamT 56 [(v0, 56), (v1, 56), (v2, 56), (v3, 56), (v4, 56), (v5, 56), (v6, 56), (v7, 56)] 0 0) 17,
          ByteSpec 56 (streamT 56 [(v0, 56), (v1, 56), (v2, 56), (v3, 56), (v4, 56), (v5, 56), (v6, 56), (v7, 56)] 0 0) 18,
          ByteSpec 56 (streamT 56 [(v0, 56), (v1, 56), (v2, 56), (v3, 56), (v4, 56), (v5, 56), (v6, 56), (v7, 56)] 0 0) 19,
          ByteSpec 56 (streamT 56 [(v0, 56), (v1, 56), (v2, 56), (v3, 56), (v4, 56), (v5, 56), (v6, 56), (v7, 56)] 0 0) 20,
          ByteSpec 56 (streamT 56 [(v0, 56), (v1, 56), (v2, 56), (v3, 56), (v4, 56), (v5, 56), (v6, 56), (v7, 56)] 0 0) 21,
          ByteSpec 56 (streamT 56 [(v0, 56), (v1, 56), (v2, 56), (v3, 56), (v4, 56), (v5, 56), (v6, 56), (v7, 56)] 0 0) 22,
          ByteSpec 56 (streamT 56 [(v0, 56), (v1, 56), (v2, 56), (v3, 56), (v4, 56), (v5, 56), (v6, 56), (v7, 56)] 0 0) 23,
          ByteSpec 56 (streamT 56 [(v0, 56), (v1, 56), (v2, 56), (v3, 56), (v4, 56), (v5, 56), (v6, 56), (v7, 56)] 0 0) 24,
          ByteSpec 56 (streamT 56 [(v0, 56), (v1, 56), (v2, 56), (v3, 56), (v4, 56), (v5, 56), (v6, 56), (v7, 56)] 0 0) 25,
          ByteSpec 56 (streamT 56 [(v0, 56), (v1, 56), (v2, 56), (v3, 56), (v4, 56), (v5, 56), (v6, 56), (v7, 56)] 0 0) 26,
          ByteSpec 56 (streamT 56 [(v0, 56), (v1, 56), (v2, 56), (v3, 56), (v4, 56), (v5, 56), (v6, 56), (v7, 56)] 0 0) 27,
          ByteSpec 56 (streamT 56 [(v0, 56), (v1, 56), (v2, 56), (v3, 56), (v4, 56), (v5, 56), (v6, 56), (v7, 56)] 0 0) 28,
          ByteSpec 56 (streamT 56 [(v0, 56), (v1, 56), (v2, 56), (v3, 56), (v4, 56), (v5, 56), (v6, 56), (v7, 56)] 0 0) 29,
          ByteSpec 56 (streamT 56 [(v0, 56), (v1, 56), (v2, 56), (v3, 56), (v4, 56), (v5, 56), (v6, 56), (v7, 56)] 0 0) 30,
          ByteSpec 56 (streamT 56 [(v0, 56), (v1, 56), (v2, 56), (v3, 56), (v4, 56), (v5, 56), (v6, 56), (v7, 56)] 0 0) 31,
          ByteSpec 56 (streamT 56 [(v0, 56), (v1, 56), (v2, 56), (v3, 56), (v4, 56), (v5, 56), (v6, 56), (v7, 56)] 0 0) 32,
          ByteSpec 56 (streamT 56 [(v0, 56), (v1, 56), (v2, 56), (v3, 56), (v4, 56), (v5, 56), (v6, 56), (v7, 56)] 0 0) 33,
          ByteSpec 56 (streamT 56 [(v0, 56), (v1, 56), (v2, 56), (v3, 56), (v4, 56), (v5, 56), (v6, 56), (v7, 56)] 0 0) 34,
          ByteSpec 56 (streamT 56 [(v0, 56), (v1, 56), (v2, 56), (v3, 56), (v4, 56), (v5, 56), (v6, 56), (v7, 56)] 0 0) 35,
          ByteSpec 56 (streamT 56 [(v0, 56), (v1, 56), (v2, 56), (v3, 56), (v4, 56), (v5, 56), (v6, 56), (v7, 56)] 0 0) 36,
          ByteSpec 56 (streamT 56 [(v0, 56), (v1, 56), (v2, 56), (v3, 56), (v4, 56), (v5, 56), (v6, 56), (v7, 56)] 0 0) 37,
          ByteSpec 56 (streamT 56 [(v0, 56), (v1, 56), (v2, 56), (v3, 56), (v4, 56), (v5, 56), (v6, 56), (v7, 56)] 0 0) 38,
          ByteSpec 56 (streamT 56 [(v0, 56), (v1, 56), (v2, 56), (v3, 56), (v4, 56), (v5, 56), (v6, 56), (v7, 56)] 0 0) 39,
          ByteSpec 56 (streamT 56 [(v0, 56), (v1, 56), (v2, 56), (v3, 56), (v4, 56), (v5, 56), (v6, 56), (v7, 56)] 0 0) 40,
          ByteSpec 56 (streamT 56 [(v0, 56), (v1, 56), (v2, 56), (v3, 56), (v4, 56), (v5, 56), (v6, 56), (v7, 56)] 0 0) 41,
          ByteSpec 56 (streamT 56 [(v0, 56), (v1, 56), (v2, 56), (v3, 56), (v4, 56), (v5, 56), (v6, 56), (v7, 56)] 0 0) 42,
          ByteSpec 56 (streamT 56 [(v0, 56), (v1, 56), (v2, 56), (v3, 56), (v4, 56), (v5, 56), (v6, 56), (v7, 56)] 0 0) 43,
          ByteSpec 56 (streamT 56 [(v0, 56), (v1, 56), (v2, 56), (v3, 56), (v4, 56), (v5, 56), (v6, 56), (v7, 56)] 0 0) 44,
          ByteSpec 56 (streamT 56 [(v0, 56), (v1, 56), (v2, 56), (v3, 56), (v4, 56), (v5, 56), (v6, 56), (v7, 56)] 0 0) 45,
          ByteSpec 56 (streamT 56 [(v0, 56), (v1, 56), (v2, 56), (v3, 56), (v4, 56), (v5, 56), (v6, 56), (v7, 56)] 0 0) 46,
          ByteSpec 56 (streamT 56 [(v0, 56), (v1, 56), (v2, 56), (v3, 56), (v4, 56), (v5, 56), (v6, 56), (v7, 56)] 0 0) 47,
          ByteSpec 56 (streamT 56 [(v0, 56), (v1, 56), (v2, 56), (v3, 56), (v4, 56), (v5, 56), (v6, 56), (v7, 56)] 0 0) 48,
          ByteSpec 56 (streamT 56 [(v0, 56), (v1, 56), (v2, 56), (v3, 56), (v4, 56), (v5, 56), (v6, 56), (v7, 56)] 0 0) 49,
          ByteSpec 56 (streamT 56 [(v0, 56), (v1, 56), (v2, 56), (v3, 56), (v4, 56), (v5, 56), (v6, 56), (v7, 56)] 0 0) 50,
          ByteSpec 56 (streamT 56 [(v0, 56), (v1, 56), (v2, 56), (v3, 56), (v4, 56), (v5, 56), (v6, 56), (v7, 56)] 0 0) 51,
          ByteSpec 56 (streamT 56 [(v0, 56), (v1, 56), (v2, 56), (v3, 56), (v4, 56), (v5, 56), (v6, 56), (v7, 56)] 0 0) 52,
          ByteSpec 56 (streamT 56 [(v0, 56), (v1, 56), (v2, 56), (v3, 56), (v4, 56), (v5, 56), (v6, 56), (v7, 56)] 0 0) 53,
          ByteSpec 56 (streamT 56 [(v0, 56), (v1, 56), (v2, 56), (v3, 56), (v4, 56), (v5, 56), (v6, 56), (v7, 56)] 0 0) 54,
          ByteSpec 56 (streamT 56 [(v0, 56), (v1, 56), (v2, 56), (v3, 56), (v4, 56), (v5, 56), (v6, 56), (v7, 56)] 0 0) 55 ] :=
    (list_eq_map_range_of_getD _ _ 56 hlen hbytes).trans (by rfl)
  have key2 : pack_bits_56 v0 v1 v2 v3 v4 v5 v6 v7
      = [ u8 (((v0 >>> 48) &&& 0xff)),
          u8 (((v0 >>> 40) &&& 0xff)),
          u8 (((v0 >>> 32) &&& 0xff)),
          u8 (((v0 >>> 24) &&& 0xff)),
          u8 (((v0 >>> 16) &&& 0xff)),
          u8 (((v0 >>> 8) &&& 0xff)),
          u8 (((v0) &&& 0xff)),
          u8 (((v1 >>> 48) &&& 0xff)),
          u8 (((v1 >>> 40) &&& 0xff)),
          u8 (((v1 >>> 32) &&& 0xff)),
          u8 (((v1 >>> 24) &&& 0xff)),
          u8 (((v1 >>> 16) &&& 0xff)),
          u8 (((v1 >>> 8) &&& 0xff)),
          u8 (((v1) &&& 0xff)),
          u8 (((v2 >>> 48) &&& 0xff)),
          u8 (((v2 >>> 40) &&& 0xff)),
          u8 (((v2 >>> 32) &&& 0xff)),
          u8 (((v2 >>> 24) &&& 0xff)),
          u8 (((v2 >>> 16) &&& 0xff)),
          u8 (((v2 >>> 8) &&& 0xff)),
          u8 (((v2) &&& 0xff)),
          u8 (((v3 >>> 48) &&& 0xff)),
          u8 (((v3 >>> 40) &&& 0xff)),
          u8 (((v3 >>> 32) &&& 0xff)),
          u8 (((v3 >>> 24) &&& 0xff)),
          u8 (((v3 >>> 16) &&& 0xff)),
          u8 (((v3 >>> 8) &&& 0xff)),
          u8 (((v3) &&& 0xff)),
          u8 (((v4 >>> 48) &&& 0xff)),
          u8 (((v4 >>> 40) &&& 0xff)),
          u8 (((v4 >>> 32) &&& 0xff)),
          u8 (((v4 >>> 24) &&& 0xff)),
          u8 (((v4 >>> 16) &&& 0xff)),
          u8 (((v4 >>> 8) &&& 0xff)),
          u8 (((v4) &&& 0xff)),
          u8 (((v5 >>> 48) &&& 0xff)),
          u8 (((v5 >>> 40) &&& 0xff)),
          u8 (((v5 >>> 32) &&& 0xff)),
          u8 (((v5 >>> 24) &&& 0xff)),
          u8 (((v5 >>> 16) &&& 0xff)),
          u8 (((v5 >>> 8) &&& 0xff)),
          u8 (((v5) &&& 0xff)),
          u8 (((v6 >>> 48) &&& 0xff)),
          u8 (((v6 >>> 40) &&& 0xff)),
          u8 (((v6 >>> 32) &&& 0xff)),
          u8 (((v6 >>> 24) &&& 0xff)),
          u8 (((v6 >>> 16) &&& 0xff)),
          u8 (((v6 >>> 8) &&& 0xff)),
          u8 (((v6) &&& 0xff)),
          u8 (((v7 >>> 48) &&& 0xff)),
          u8 (((v7 >>> 40) &&& 0xff)),
          u8 (((v7 >>> 32) &&& 0xff)),
          u8 (((v7 >>> 24) &&& 0xff)),
          u8 (((v7 >>> 16) &&& 0xff)),
          u8 (((v7 >>> 8) &&& 0xff)),
          u8 (((v7) &&& 0xff)) ] := rfl
  obtain ⟨A0, S0, hT0, hA0, hS0⟩ :=
    streamT_decomp 56 [(v0, 56), (v1, 56), (v2, 56), (v3, 56), (v4, 56), (v5, 56), (v6, 56), (v7, 56)] [] [(v1, 56), (v2, 56), (v3, 56), (v4, 56), (v5, 56), (v6, 56), (v7, 56)] v0 56 0 rfl rfl hvs
      (by norm_num [List.map_cons, List.map_nil, List.sum_cons, List.sum_nil])
  obtain ⟨A1, S1, hT1, hA1, hS1⟩ :=
    streamT_decomp 56 [(v0, 56), (v1, 56), (v2, 56), (v3, 56), (v4, 56), (v5, 56), (v6, 56), (v7, 56)] [(v0, 56)] [(v2, 56), (v3, 56), (v4, 56), (v5, 56), (v6, 56), (v7, 56)] v1 56 56 rfl rfl hvs
      (by norm_num [List.map_cons, List.map_nil, List.sum_cons, List.sum_nil])
  obtain ⟨A2, S2, hT2, hA2, hS2⟩ :=
    streamT_decomp 56 [(v0, 56), (v1, 56), (v2, 56), (v3, 56), (v4, 56), (v5, 56), (v6, 56), (v7, 56)] [(v0, 56), (v1, 56)] [(v3, 56), (v4, 56), (v5, 56), (v6, 56), (v7, 56)] v2 56 112 rfl rfl hvs
      (by norm_num [List.map_cons, List.map_nil, List.sum_cons, List.sum_nil])
  obtain ⟨A3, S3, hT3, hA3, hS3⟩ :=
    streamT_decomp 56 [(v0, 56), (v1, 56), (v2, 56), (v3, 56), (v4, 56), (v5, 56), (v6, 56), (v7, 56)] [(v0, 56), (v1, 56), (v2, 56)] [(v4, 56), (v5, 56), (v6, 56), (v7, 56)] v3 56 168 rfl rfl hvs
      (by norm_num [List.map_cons, List.map_nil, List.sum_cons, List.sum_nil])
  obtain ⟨A4, S4, hT4, hA4, hS4⟩ :=
    streamT_decomp 56 [(v0, 56), (v1, 56), (v2, 56), (v3, 56), (v4, 56), (v5, 56), (v6, 56), (v7, 56)] [(v0, 56), (v1, 56), (v2, 56), (v3, 56)] [(v5, 56), (v6, 56), (v7, 56)] v4 56 224 rfl rfl hvs
      (by norm_num [List.map_cons, List.map_nil, List.sum_cons, List.sum_nil])
  obtain ⟨A5, S5, hT5, hA5, hS5⟩ :=
    streamT_decomp 56 [(v0, 56), (v1, 56), (v2, 56), (v3, 56), (v4, 56), (v5, 56), (v6, 56), (v7, 56)] [(v0, 56), (v1, 56), (v2, 56), (v3, 56), (v4, 56)] [(v6, 56), (v7, 56)] v5 56 280 rfl rfl hvs
      (by norm_num [List.map_cons, List.map_nil, List.sum_cons, List.sum_nil])
  obtain ⟨A6, S6, hT6, hA6, hS6⟩ :=
    streamT_decomp 56 [(v0, 56), (v1, 56), (v2, 56), (v3, 56), (v4, 56), (v5, 56), (v6, 56), (v7, 56)] [(v0, 56), (v1, 56), (v2, 56), (v3, 56), (v4, 56), (v5, 56)] [(v7, 56)] v6 56 336 rfl rfl hvs
      (by norm_num [List.map_cons, List.map_nil, List.sum_cons, List.sum_nil])
  obtain ⟨A7, S7, hT7, hA7, hS7⟩ :=
    streamT_decomp 56 [(v0, 56), (v1, 56), (v2, 56), (v3, 56), (v4, 56), (v5, 56), (v6, 56), (v7, 56)] [(v0, 56), (v1, 56), (v2, 56), (v3, 56), (v4, 56), (v5, 56), (v6, 56)] [] v7 56 392 rfl rfl hvs
      (by norm_num [List.map_cons, List.map_nil, List.sum_cons, List.sum_nil])
  rw [key, key2]
  simp only [List.cons.injEq]
  refine ⟨?_, ?_, ?_, ?_, ?_, ?_, ?_, ?_, ?_, ?_, ?_, ?_, ?_, ?_, ?_, ?_, ?_, ?_, ?_, ?_, ?_, ?_, ?_, ?_, ?_, ?_, ?_, ?_, ?_, ?_, ?_, ?_, ?_, ?_, ?_, ?_, ?_, ?_, ?_, ?_, ?_, ?_, ?_, ?_, ?_, ?_, ?_, ?_, ?_, ?_, ?_, ?_, ?_, ?_, ?_, ?_, trivial⟩
  · rw [hT0]
    exact byteSpec_mid 56 A0 v0 S0 (8 * 56 - 0 - 56) 56 0 48 hA0 hS0
      (by norm_num) (by norm_num)
  · rw [hT0]
    exact byteSpec_mid 56 A0 v0 S0 (8 * 56 - 0 - 56) 56 1 40 hA0 hS0
      (by norm_num) (by norm_num)
  · rw [hT0]
    exact byteSpec_mid 56 A0 v0 S0 (8 * 56 - 0 - 56) 56 2 32 hA0 hS0
      (by norm_num) (by norm_num)
  · rw [hT0]
    exact byteSpec_mid 56 A0 v0 S0 (8 * 56 - 0 - 56) 56 3 24 hA0 hS0
      (by norm_num) (by norm_num)
  · rw [hT0]
    exact byteSpec_mid 56 A0 v0 S0 (8 * 56 - 0 - 56) 56 4 16 hA0 hS0
      (by norm_num) (by norm_num)
  · rw [hT0]
    exact byteSpec_mid 56 A0 v0 S0 (8 * 56 - 0 - 56) 56 5 8 hA0 hS0
      (by norm_num) (by norm_num)
  · rw [hT0]
    exact byteSpec_mid0 56 A0 v0 S0 (8 * 56 - 0 - 56) 56 6 hA0 hS0
      (by norm_num) (by norm_num)
  · rw [hT1]
    exact byteSpec_mid 56 A1 v1 S1 (8 * 56 - 56 - 56) 56 7 48 hA1 hS1
      (by norm_num) (by norm_num)
  · rw [hT1]
    exact byteSpec_mid 56 A1 v1 S1 (8 * 56 - 56 - 56) 56 8 40 hA1 hS1
      (by norm_num) (by norm_num)
  · rw [hT1]
    exact byteSpec_mid 56 A1 v1 S1 (8 * 56 - 56 - 56) 56 9 32 hA1 hS1
      (by norm_num) (by norm_num)
  · rw [hT1]
    exact byteSpec_mid 56 A1 v1 S1 (8 * 56 - 56 - 56) 56 10 24 hA1 hS1
      (by norm_num) (by norm_num)
  · rw [hT1]
    exact byteSpec_mid 56 A1 v1 S1 (8 * 56 - 56 - 56) 56 11 16 hA1 hS1
      (by norm_num) (by norm_num)
  · rw [hT1]
    exact byteSpec_mid 56 A1 v1 S1 (8 * 56 - 56 - 56) 56 12 8 hA1 hS1
      (by norm_num) (by norm_num)
  · rw [hT1]
    exact byteSpec_mid0 56 A1 v1 S1 (8 * 56 - 56 - 56) 56 13 hA1 hS1
      (by norm_num) (by norm_num)
  · rw [hT2]
    exact byteSpec_mid 56 A2 v2 S2 (8 * 56 - 112 - 56) 56 14 48 hA2 hS2
      (by norm_num) (by norm_num)
  · rw [hT2]
    exact byteSpec_mid 56 A2 v2 S2 (8 * 56 - 112 - 56) 56 15 40 hA2 hS2
      (by norm_num) (by norm_num)
  · rw [hT2]
    exact byteSpec_mid 56 A2 v2 S2 (8 * 56 - 112 - 56) 56 16 32 hA2 hS2
      (by norm_num) (by norm_num)
  · rw [hT2]
    exact byteSpec_mid 56 A2 v2 S2 (8 * 56 - 112 - 56) 56 17 24 hA2 hS2
      (by norm_num) (by norm_num)
  · rw [hT2]
    exact byteSpec_mid 56 A2 v2 S2 (8 * 56 - 112 - 56) 56 18 16 hA2 hS2
      (by norm_num) (by norm_num)
  · rw [hT2]
    exact byteSpec_mid 56 A2 v2 S2 (8 * 56 - 112 - 56) 56 19 8 hA2 hS2
      (by norm_num) (by norm_num)
  · rw [hT2]
    exact byteSpec_mid0 56 A2 v2 S2 (8 * 56 - 112 - 56) 56 20 hA2 hS2
      (by norm_num) (by norm_num)
  · rw [hT3]
    exact byteSpec_mid 56 A3 v3 S3 (8 * 56 - 168 - 56) 56 21 48 hA3 hS3
      (by norm_num) (by norm_num)
  · rw [hT3]
    exact byteSpec_mid 56 A3 v3 S3 (8 * 56 - 168 - 56) 56 22 40 hA3 hS3
      (by norm_num) (by norm_num)
  · rw [hT3]
    exact byteSpec_mid 56 A3 v3 S3 (8 * 56 - 168 - 56) 56 23 32 hA3 hS3
      (by norm_num) (by norm_num)
  · rw [hT3]
    exact byteSpec_mid 56 A3 v3 S3 (8 * 56 - 168 - 56) 56 24 24 hA3 hS3
      (by norm_num) (by norm_num)
  · rw [hT3]
    exact byteSpec_mid 56 A3 v3 S3 (8 * 56 - 168 - 56) 56 25 16 hA3 hS3
      (by norm_num) (by norm_num)
  · rw [hT3]
    exact byteSpec_mid 56 A3 v3 S3 (8 * 56 - 168 - 56) 56 26 8 hA3 hS3
      (by norm_num) (by norm_num)
  · rw [hT3]
    exact byteSpec_mid0 56 A3 v3 S3 (8 * 56 - 168 - 56) 56 27 hA3 hS3
      (by norm_num) (by norm_num)
  · rw [hT4]
    exact byteSpec_mid 56 A4 v4 S4 (8 * 56 - 224 - 56) 56 28 48 hA4 hS4
      (by norm_num) (by norm_num)
  · rw [hT4]
    exact byteSpec_mid 56 A4 v4 S4 (8 * 56 - 224 - 56) 56 29 40 hA4 hS4
      (by norm_num) (by norm_num)
  · rw [hT4]
    exact byteSpec_mid 56 A4 v4 S4 (8 * 56 - 224 - 56) 56 30 32 hA4 hS4
      (by norm_num) (by norm_num)
  · rw [hT4]
    exact byteSpec_mid 56 A4 v4 S4 (8 * 56 - 224 - 56) 56 31 24 hA4 hS4
      (by norm_num) (by norm_num)
  · rw [hT4]
    exact byteSpec_mid 56 A4 v4 S4 (8 * 56 - 224 - 56) 56 32 16 hA4 hS4
      (by norm_num) (by norm_num)
  · rw [hT4]
    exact byteSpec_mid 56 A4 v4 S4 (8 * 56 - 224 - 56) 56 33 8 hA4 hS4
      (by norm_num) (by norm_num)
  · rw [hT4]
    exact byteSpec_mid0 56 A4 v4 S4 (8 * 56 - 224 - 56) 56 34 hA4 hS4
      (by norm_num) (by norm_num)
  · rw [hT5]
    exact byteSpec_mid 56 A5 v5 S5 (8 * 56 - 280 - 56) 56 35 48 hA5 hS5
      (by norm_num) (by norm_num)
  · rw [hT5]
    exact byteSpec_mid 56 A5 v5 S5 (8 * 56 - 280 - 56) 56 36 40 hA5 hS5
      (by norm_num) (by norm_num)
  · rw [hT5]
    exact byteSpec_mid 56 A5 v5 S5 (8 * 56 - 280 - 56) 56 37 32 hA5 hS5
      (by norm_num) (by norm_num)
  · rw [hT5]
    exact byteSpec_mid 56 A5 v5 S5 (8 * 56 - 280 - 56) 56 38 24 hA5 hS5
      (by norm_num) (by norm_num)
  · rw [hT5]
    exact byteSpec_mid 56 A5 v5 S5 (8 * 56 - 280 - 56) 56 39 16 hA5 hS5
      (by norm_num) (by norm_num)
  · rw [hT5]
    exact byteSpec_mid 56 A5 v5 S5 (8 * 56 - 280 - 56) 56 40 8 hA5 hS5
      (by norm_num) (by norm_num)
  · rw [hT5]
    exact byteSpec_mid0 56 A5 v5 S5 (8 * 56 - 280 - 56) 56 41 hA5 hS5
      (by norm_num) (by norm_num)
  · rw [hT6]
    exact byteSpec_mid 56 A6 v6 S6 (8 * 56 - 336 - 56) 56 42 48 hA6 hS6
      (by norm_num) (by norm_num)
  · rw [hT6]
    exact byteSpec_mid 56 A6 v6 S6 (8 * 56 - 336 - 56) 56 43 40 hA6 hS6
      (by norm_num) (by norm_num)
  · rw [hT6]
    exact byteSpec_mid 56 A6 v6 S6 (8 * 56 - 336 - 56) 56 44 32 hA6 hS6
      (by norm_num) (by norm_num)
  · rw [hT6]
    exact byteSpec_mid 56 A6 v6 S6 (8 * 56 - 336 - 56) 56 45 24 hA6 hS6
      (by norm_num) (by norm_num)
  · rw [hT6]
    exact byteSpec_mid 56 A6 v6 S6 (8 * 56 - 336 - 56) 56 46 16 hA6 hS6
      (by norm_num) (by norm_num)
  · rw [hT6]
    exact byteSpec_mid 56 A6 v6 S6 (8 * 56 - 336 - 56) 56 47 8 hA6 hS6
      (by norm_num) (by norm_num)
  · rw [hT6]
    exact byteSpec_mid0 56 A6 v6 S6 (8 * 56 - 336 - 56) 56 48 hA6 hS6
      (by norm_num) (by norm_num)
  · rw [hT7]
    exact byteSpec_mid 56 A7 v7 S7 (8 * 56 - 392 - 56) 56 49 48 hA7 hS7
      (by norm_num) (by norm_num)
  · rw [hT7]
    exact byteSpec_mid 56 A7 v7 S7 (8 * 56 - 392 - 56) 56 50 40 hA7 hS7
      (by norm_num) (by norm_num)
  · rw [hT7]
    exact byteSpec_mid 56 A7 v7 S7 (8 * 56 - 392 - 56) 56 51 32 hA7 hS7
      (by norm_num) (by norm_num)
  · rw [hT7]
    exact byteSpec_mid 56 A7 v7 S7 (8 * 56 - 392 - 56) 56 52 24 hA7 hS7
      (by norm_num) (by norm_num)
  · rw [hT7]
    exact byteSpec_mid 56 A7 v7 S7 (8 * 56 - 392 - 56) 56 53 16 hA7 hS7
      (by norm_num) (by norm_num)
  · rw [hT7]
    exact byteSpec_mid 56 A7 v7 S7 (8 * 56 - 392 - 56) 56 54 8 hA7 hS7
      (by norm_num) (by norm_num)
  · rw [hT7]
    exact byteSpec_mid0 56 A7 v7 S7 (8 * 56 - 392 - 56) 56 55 hA7 hS7
      (by norm_num) (by norm_num)

set_option maxRecDepth 16000 in
set_option maxHeartbeats 1000000 in
theorem c5_pack_eq_57 (v0 v1 v2 v3 v4 v5 v6 v7 : Nat) (hv0 : v0 < 2 ^ 57) (hv1 : v1 < 2 ^ 57) (hv2 : v2 < 2 ^ 57) (hv3 : v3 < 2 ^ 57) (hv4 : v4 < 2 ^ 57) (hv5 : v5 < 2 ^ 57) (hv6 : v6 < 2 ^ 57) (hv7 : v7 < 2 ^ 57) :
    (packSeq (BitPacker.new (List.replicate 57 0)) [(v0, 57), (v1, 57), (v2, 57), (v3, 57), (v4, 57), (v5, 57), (v6, 57), (v7, 57)]).bytes
      = pack_bits_57 v0 v1 v2 v3 v4 v5 v6 v7 := by
  have hvs : ∀ p ∈ ([(v0, 57), (v1, 57), (v2, 57), (v3, 57), (v4, 57), (v5, 57), (v6, 57), (v7, 57)] : List (Nat × Nat)), p.1 < 2 ^ p.2 := by
    intro p hp
    simp only [List.mem_cons, List.not_mem_nil, or_false] at hp
    rcases hp with rfl | rfl | rfl | rfl | rfl | rfl | rfl | rfl
    exacts [hv0, hv1, hv2, hv3, hv4, hv5, hv6, hv7]
  obtain ⟨-, -, -, ⟨hlen, hbytes⟩, -, -⟩ :=
    packSeq_inv 57 [(v0, 57), (v1, 57), (v2, 57), (v3, 57), (v4, 57), (v5, 57), (v6, 57), (v7, 57)] 0 0 _ hvs
      (by norm_num [List.map_cons, List.map_nil, List.sum_cons, List.sum_nil]) (packInv_init 57)
  have key : (packSeq (BitPacker.new (List.replicate 57 0)) [(v0, 57), (v1, 57), (v2, 57), (v3, 57), (v4, 57), (v5, 57), (v6, 57), (v7, 57)]).bytes
      = [ ByteSpec 57 (streamT 57 [(v0, 57), (v1, 57), (v2, 57), (v3, 57), (v4, 57), (v5, 57), (v6, 57), (v7, 57)] 0 0) 0,
          ByteSpec 57 (streamT 57 [(v0, 57), (v1, 57), (v2, 57), (v3, 57), (v4, 57), (v5, 57), (v6, 57), (v7, 57)] 0 0) 1,
          ByteSpec 57 (streamT 57 [(v0, 57), (v1, 57), (v2, 57), (v3, 57), (v4, 57), (v5, 57), (v6, 57), (v7, 57)] 0 0) 2,
          ByteSpec 57 (streamT 57 [(v0, 57), (v1, 57), (v2, 57), (v3, 57), (v4, 57), (v5, 57), (v6, 57), (v7, 57)] 0 0) 3,
          ByteSpec 57 (streamT 57 [(v0, 57), (v1, 57), (v2, 57), (v3, 57), (v4, 57), (v5, 57), (v6, 57), (v7, 57)] 0 0) 4,
          ByteSpec 57 (streamT 57 [(v0, 57), (v1, 57), (v2, 57), (v3, 57), (v4, 57), (v5, 57), (v6, 57), (v7, 57)] 0 0) 5,
          ByteSpec 57 (streamT 57 [(v0, 57), (v1, 57), (v2, 57), (v3, 57), (v4, 57), (v5, 57), (v6, 57), (v7, 57)] 0 0) 6,
          ByteSpec 57 (streamT 57 [(v0, 57), (v1, 57), (v2, 57), (v3, 57), (v4, 57), (v5, 57), (v6, 57), (v7, 57)] 0 0) 7,
          ByteSpec 57 (streamT 57 [(v0, 57), (v1, 57), (v2, 57), (v3, 57), (v4, 57), (v5, 57), (v6, 57), (v7, 57)] 0 0) 8,
          ByteSpec 57 (streamT 57 [(v0, 57), (v1, 57), (v2, 57), (v3, 57), (v4, 57), (v5, 57), (v6, 57), (v7, 57)] 0 0) 9,
          ByteSpec 57 (streamT 57 [(v0, 57), (v1, 57), (v2, 57), (v3, 57), (v4, 57), (v5, 57), (v6, 57), (v7, 57)] 0 0) 10,
          ByteSpec 57 (streamT 57 [(v0, 57), (v1, 57), (v2, 57), (v3, 57), (v4, 57), (v5, 57), (v6, 57), (v7, 57)] 0 0) 11,
          ByteSpec 57 (streamT 57 [(v0, 57), (v1, 57), (v2, 57), (v3, 57), (v4, 57), (v5, 57), (v6, 57), (v7, 57)] 0 0) 12,
          ByteSpec 57 (streamT 57 [(v0, 57), (v1, 57), (v2, 57), (v3, 57), (v4, 57), (v5, 57), (v6, 57), (v7, 57)] 0 0) 13,
          ByteSpec 57 (streamT 57 [(v0, 57), (v1, 57), (v2, 57), (v3, 57), (v4, 57), (v5, 57), (v6, 57), (v7, 57)] 0 0) 14,
          ByteSpec 57 (streamT 57 [(v0, 57), (v1, 57), (v2, 57), (v3, 57), (v4, 57), (v5, 57), (v6, 57), (v7, 57)] 0 0) 15,
          ByteSpec 57 (streamT 57 [(v0, 57), (v1, 57), (v2, 57), (v3, 57), (v4, 57), (v5, 57), (v6, 57), (v7, 57)] 0 0) 16,
          ByteSpec 57 (streamT 57 [(v0, 57), (v1, 57), (v2, 57), (v3, 57), (v4, 57), (v5, 57), (v6, 57), (v7, 57)] 0 0) 17,
          ByteSpec 57 (streamT 57 [(v0, 57), (v1, 57), (v2, 57), (v3, 57), (v4, 57), (v5, 57), (v6, 57), (v7, 57)] 0 0) 18,
          ByteSpec 57 (streamT 57 [(v0, 57), (v1, 57), (v2, 57), (v3, 57), (v4, 57), (v5, 57), (v6, 57), (v7, 57)] 0 0) 19,
          ByteSpec 57 (streamT 57 [(v0, 57), (v1, 57), (v2, 57), (v3, 57), (v4, 57), (v5, 57), (v6, 57), (v7, 57)] 0 0) 20,
          ByteSpec 57 (streamT 57 [(v0, 57), (v1, 57), (v2, 57), (v3, 57), (v4, 57), (v5, 57), (v6, 57), (v7, 57)] 0 0) 21,
          ByteSpec 57 (streamT 57 [(v0, 57), (v1, 57), (v2, 57), (v3, 57), (v4, 57), (v5, 57), (v6, 57), (v7, 57)] 0 0) 22,
          ByteSpec 57 (streamT 57 [(v0, 57), (v1, 57), (v2, 57), (v3, 57), (v4, 57), (v5, 57), (v6, 57), (v7, 57)] 0 0) 23,
          ByteSpec 57 (streamT 57 [(v0, 57), (v1, 57), (v2, 57), (v3, 57), (v4, 57), (v5, 57), (v6, 57), (v7, 57)] 0 0) 24,
          ByteSpec 57 (streamT 57 [(v0, 57), (v1, 57), (v2, 57), (v3, 57), (v4, 57), (v5, 57), (v6, 57), (v7, 57)] 0 0) 25,
          ByteSpec 57 (streamT 57 [(v0, 57), (v1, 57), (v2, 57), (v3, 57), (v4, 57), (v5, 57), (v6, 57), (v7, 57)] 0 0) 26,
          ByteSpec 57 (streamT 57 [(v0, 57), (v1, 57), (v2, 57), (v3, 57), (v4, 57), (v5, 57), (v6, 57), (v7, 57)] 0 0) 27,
          ByteSpec 57 (streamT 57 [(v0, 57), (v1, 57), (v2, 57), (v3, 57), (v4, 57), (v5, 57), (v6, 57), (v7, 57)] 0 0) 28,
          ByteSpec 57 (streamT 57 [(v0, 57), (v1, 57), (v2, 57), (v3, 57), (v4, 57), (v5, 57), (v6, 57), (v7, 57)] 0 0) 29,
          ByteSpec 57 (streamT 57 [(v0, 57), (v1, 57), (v2, 57), (v3, 57), (v4, 57), (v5, 57), (v6, 57), (v7, 57)] 0 0) 30,
          ByteSpec 57 (streamT 57 [(v0, 57), (v1, 57), (v2, 57), (v3, 57), (v4, 57), (v5, 57), (v6, 57), (v7, 57)] 0 0) 31,
          ByteSpec 57 (streamT 57 [(v0, 57), (v1, 57), (v2, 57), (v3, 57), (v4, 57), (v5, 57), (v6, 57), (v7, 57)] 0 0) 32,
          ByteSpec 57 (streamT 57 [(v0, 57), (v1, 57), (v2, 57), (v3, 57), (v4, 57), (v5, 57), (v6, 57), (v7, 57)] 0 0) 33,
          ByteSpec 57 (streamT 57 [(v0, 57), (v1, 57), (v2, 57), (v3, 57), (v4, 57), (v5, 57), (v6, 57), (v7, 57)] 0 0) 34,
          ByteSpec 57 (streamT 57 [(v0, 57), (v1, 57), (v2, 57), (v3, 57), (v4, 57), (v5, 57), (v6, 57), (v7, 57)] 0 0) 35,
          ByteSpec 57 (streamT 57 [(v0, 57), (v1, 57), (v2, 57), (v3, 57), (v4, 57), (v5, 57), (v6, 57), (v7, 57)] 0 0) 36,
          ByteSpec 57 (streamT 57 [(v0, 57), (v1, 57), (v2, 57), (v3, 57), (v4, 57), (v5, 57), (v6, 57), (v7, 57)] 0 0) 37,
          ByteSpec 57 (streamT 57 [(v0, 57), (v1, 57), (v2, 57), (v3, 57), (v4, 57), (v5, 57), (v6, 57), (v7, 57)] 0 0) 38,
          ByteSpec 57 (streamT 57 [(v0, 57), (v1, 57), (v2, 57), (v3, 57), (v4, 57), (v5, 57), (v6, 57), (v7, 57)] 0 0) 39,
          ByteSpec 57 (streamT 57 [(v0, 57), (v1, 57), (v2, 57), (v3, 57), (v4, 57), (v5, 57), (v6, 57), (v7, 57)] 0 0) 40,
          ByteSpec 57 (streamT 57 [(v0, 57), (v1, 57), (v2, 57), (v3, 57), (v4, 57), (v5, 57), (v6, 57), (v7, 57)] 0 0) 41,
          ByteSpec 57 (streamT 57 [(v0, 57), (v1, 57), (v2, 57), (v3, 57), (v4, 57), (v5, 57), (v6, 57), (v7, 57)] 0 0) 42,
          ByteSpec 57 (streamT 57 [(v0, 57), (v1, 57), (v2, 57), (v3, 57), (v4, 57), (v5, 57), (v6, 57), (v7, 57)] 0 0) 43,
          ByteSpec 57 (streamT 57 [(v0, 57), (v1, 57), (v2, 57), (v3, 57), (v4, 57), (v5, 57), (v6, 57), (v7, 57)] 0 0) 44,
          ByteSpec 57 (streamT 57 [(v0, 57), (v1, 57), (v2, 57), (v3, 57), (v4, 57), (v5, 57), (v6, 57), (v7, 57)] 0 0) 45,
          ByteSpec 57 (streamT 57 [(v0, 57), (v1, 57), (v2, 57), (v3, 57), (v4, 57), (v5, 57), (v6, 57), (v7, 57)] 0 0) 46,
          ByteSpec 57 (streamT 57 [(v0, 57), (v1, 57), (v2, 57), (v3, 57), (v4, 57), (v5, 57), (v6, 57), (v7, 57)] 0 0) 47,
          ByteSpec 57 (streamT 57 [(v0, 57), (v1, 57), (v2, 57), (v3, 57), (v4, 57), (v5, 57), (v6, 57), (v7, 57)] 0 0) 48,
          ByteSpec 57 (streamT 57 [(v0, 57), (v1, 57), (v2, 57), (v3, 57), (v4, 57), (v5, 57), (v6, 57), (v7, 57)] 0 0) 49,
          ByteSpec 57 (streamT 57 [(v0, 57), (v1, 57), (v2, 57), (v3, 57), (v4, 57), (v5, 57), (v6, 57), (v7, 57)] 0 0) 50,
          ByteSpec 57 (streamT 57 [(v0, 57), (v1, 57), (v2, 57), (v3, 57), (v4, 57), (v5, 57), (v6, 57), (v7, 57)] 0 0) 51,
          ByteSpec 57 (streamT 57 [(v0, 57), (v1, 57), (v2, 57), (v3, 57), (v4, 57), (v5, 57), (v6, 57), (v7, 57)] 0 0) 52,
          ByteSpec 57 (streamT 57 [(v0, 57), (v1, 57), (v2, 57), (v3, 57), (v4, 57), (v5, 57), (v6, 57), (v7, 57)] 0 0) 53,
          ByteSpec 57 (streamT 57 [(v0, 57), (v1, 57), (v2, 57), (v3, 57), (v4, 57), (v5, 57), (v6, 57), (v7, 57)] 0 0) 54,
          ByteSpec 57 (streamT 57 [(v0, 57), (v1, 57), (v2, 57), (v3, 57), (v4, 57), (v5, 57), (v6, 57), (v7, 57)] 0 0) 55,
          ByteSpec 57 (streamT 57 [(v0, 57), (v1, 57), (v2, 57), (v3, 57), (v4, 57), (v5, 57), (v6, 57), (v7, 57)] 0 0) 56 ] :=
    (list_eq_map_range_of_getD _ _ 57 hlen hbytes).trans (by rfl)
  have key2 : pack_bits_57 v0 v1 v2 v3 v4 v5 v6 v7
      = [ u8 (((v0 >>> 49) &&& 0xff)),
          u8 (((v0 >>> 41) &&& 0xff)),
          u8 (((v0 >>> 33) &&& 0xff)),
          u8 (((v0 >>> 25) &&& 0xff)),
          u8 (((v0 >>> 17) &&& 0xff)),
          u8 (((v0 >>> 9) &&& 0xff)),
          u8 (((v0 >>> 1) &&& 0xff)),
          u8 (((((v0) &&& 0x1) <<< 7) ||| ((v1 >>> 50) &&& 0x7f))),
          u8 (((v1 >>> 42) &&& 0xff)),
          u8 (((v1 >>> 34) &&& 0xff)),
          u8 (((v1 >>> 26) &&& 0xff)),
          u8 (((v1 >>> 18) &&& 0xff)),
          u8 (((v1 >>> 10) &&& 0xff)),
          u8 (((v1 >>> 2) &&& 0xff)),
          u8 (((((v1) &&& 0x3) <<< 6) ||| ((v2 >>> 51) &&& 0x3f))),
          u8 (((v2 >>> 43) &&& 0xff)),
          u8 (((v2 >>> 35) &&& 0xff)),
          u8 (((v2 >>> 27) &&& 0xff)),
          u8 (((v2 >>> 19) &&& 0xff)),
          u8 (((v2 >>> 11) &&& 0xff)),
          u8 (((v2 >>> 3) &&& 0xff)),
          u8 (((((v2) &&& 0x7) <<< 5) ||| ((v3 >>> 52) &&& 0x1f))),
          u8 (((v3 >>> 44) &&& 0xff)),
          u8 (((v3 >>> 36) &&& 0xff)),
          u8 (((v3 >>> 28) &&& 0xff)),
          u8 (((v3 >>> 20) &&& 0xff)),
          u8 (((v3 >>> 12) &&& 0xff)),
          u8 (((v3 >>> 4) &&& 0xff)),
          u8 (((((v3) &&& 0xf) <<< 4) ||| ((v4 >>> 53) &&& 0xf))),
          u8 (((v4 >>> 45) &&& 0xff)),
          u8 (((v4 >>> 37) &&& 0xff)),
          u8 (((v4 >>> 29) &&& 0xff)),
          u8 (((v4 >>> 21) &&& 0xff)),
          u8 (((v4 >>> 13) &&& 0xff)),
          u8 (((v4 >>> 5) &&& 0xff)),
          u8 (((((v4) &&& 0x1f) <<< 3) ||| ((v5 >>> 54) &&& 0x7))),
          u8 (((v5 >>> 46) &&& 0xff)),
          u8 (((v5 >>> 38) &&& 0xff)),
          u8 (((v5 >>> 30) &&& 0xff)),
          u8 (((v5 >>> 22) &&& 0xff)),
          u8 (((v5 >>> 14) &&& 0xff)),
          u8 (((v5 >>> 6) &&& 0xff)),
          u8 (((((v5) &&& 0x3f) <<< 2) ||| ((v6 >>> 55) &&& 0x3))),
          u8 (((v6 >>> 47) &&& 0xff)),
          u8 (((v6 >>> 39) &&& 0xff)),
          u8 (((v6 >>> 31) &&& 0xff)),
          u8 (((v6 >>> 23) &&& 0xff)),
          u8 (((v6 >>> 15) &&& 0xff)),
          u8 (((v6 >>> 7) &&& 0xff)),
          u8 (((((v6) &&& 0x7f) <<< 1) ||| ((v7 >>> 56) &&& 0x1))),
          u8 (((v7 >>> 48) &&& 0xff)),
          u8 (((v7 >>> 40) &&& 0xff)),
          u8 (((v7 >>> 32) &&& 0xff)),
          u8 (((v7 >>> 24) &&& 0xff)),
          u8 (((v7 >>> 16) &&& 0xff)),
          u8 (((v7 >>> 8) &&& 0xff)),
          u8 (((v7) &&& 0xff)) ] := rfl
  obtain ⟨A0, S0, hT0, hA0, hS0⟩ :=
    streamT_decomp 57 [(v0, 57), (v1, 57), (v2, 57), (v3, 57), (v4, 57), (v5, 57), (v6, 57), (v7, 57)] [] [(v1, 57), (v2, 57), (v3, 57), (v4, 57), (v5, 57), (v6, 57), (v7, 57)] v0 57 0 rfl rfl hvs
      (by norm_num [List.map_cons, List.map_nil, List.sum_cons, List.sum_nil])
  obtain ⟨A1, S1, hT1, hA1, hS1⟩ :=
    streamT_decomp 57 [(v0, 57), (v1, 57), (v2, 57), (v3, 57), (v4, 57), (v5, 57), (v6, 57), (v7, 57)] [(v0, 57)] [(v2, 57), (v3, 57), (v4, 57), (v5, 57), (v6, 57), (v7, 57)] v1 57 57 rfl rfl hvs
      (by norm_num [List.map_cons, List.map_nil, List.sum_cons, List.sum_nil])
  obtain ⟨A2, S2, hT2, hA2, hS2⟩ :=
    streamT_decomp 57 [(v0, 57), (v1, 57), (v2, 57), (v3, 57), (v4, 57), (v5, 57), (v6, 57), (v7, 57)] [(v0, 57), (v1, 57)] [(v3, 57), (v4, 57), (v5, 57), (v6, 57), (v7, 57)] v2 57 114 rfl rfl hvs
      (by norm_num [List.map_cons, List.map_nil, List.sum_cons, List.sum_nil])
  obtain ⟨A3, S3, hT3, hA3, hS3⟩ :=
    streamT_decomp 57 [(v0, 57), (v1, 57), (v2, 57), (v3, 57), (v4, 57), (v5, 57), (v6, 57), (v7, 57)] [(v0, 57), (v1, 57), (v2, 57)] [(v4, 57), (v5, 57), (v6, 57), (v7, 57)] v3 57 171 rfl rfl hvs
      (by norm_num [List.map_cons, List.map_nil, List.sum_cons, List.sum_nil])
  obtain ⟨A4, S4, hT4, hA4, hS4⟩ :=
    streamT_decomp 57 [(v0, 57), (v1, 57), (v2, 57), (v3, 57), (v4, 57), (v5, 57), (v6, 57), (v7, 57)] [(v0, 57), (v1, 57), (v2, 57), (v3, 57)] [(v5, 57), (v6, 57), (v7, 57)] v4 57 228 rfl rfl hvs
      (by norm_num [List.map_cons, List.map_nil, List.sum_cons, List.sum_nil])
  obtain ⟨A5, S5, hT5, hA5, hS5⟩ :=
    streamT_decomp 57 [(v0, 57), (v1, 57), (v2, 57), (v3, 57), (v4, 57), (v5, 57), (v6, 57), (v7, 57)] [(v0, 57), (v1, 57), (v2, 57), (v3, 57), (v4, 57)] [(v6, 57), (v7, 57)] v5 57 285 rfl rfl hvs
      (by norm_num [List.map_cons, List.map_nil, List.sum_cons, List.sum_nil])
  obtain ⟨A6, S6, hT6, hA6, hS6⟩ :=
    streamT_decomp 57 [(v0, 57), (v1, 57), (v2, 57), (v3, 57), (v4, 57), (v5, 57), (v6, 57), (v7, 57)] [(v0, 57), (v1, 57), (v2, 57), (v3, 57), (v4, 57), (v5, 57)] [(v7, 57)] v6 57 342 rfl rfl hvs
      (by norm_num [List.map_cons, List.map_nil, List.sum_cons, List.sum_nil])
  obtain ⟨A7, S7, hT7, hA7, hS7⟩ :=
    streamT_decomp 57 [(v0, 57), (v1, 57), (v2, 57), (v3, 57), (v4, 57), (v5, 57), (v6, 57), (v7, 57)] [(v0, 57), (v1, 57), (v2, 57), (v3, 57), (v4, 57), (v5, 57), (v6, 57)] [] v7 57 399 rfl rfl hvs
      (by norm_num [List.map_cons, List.map_nil, List.sum_cons, List.sum_nil])
  obtain ⟨B0, R0, hU0, hB0, hR0⟩ :=
    streamT_decomp2 57 [(v0, 57), (v1, 57), (v2, 57), (v3, 57), (v4, 57), (v5, 57), (v6, 57), (v7, 57)] [] [(v2, 57), (v3, 57), (v4, 57), (v5, 57), (v6, 57), (v7, 57)] v0 v1 57 57 0 rfl rfl hvs
      (by norm_num [List.map_cons, List.map_nil, List.sum_cons, List.sum_nil])
  obtain ⟨B1, R1, hU1, hB1, hR1⟩ :=
    streamT_decomp2 57 [(v0, 57), (v1, 57), (v2, 57), (v3, 57), (v4, 57), (v5, 57), (v6, 57), (v7, 57)] [(v0, 57)] [(v3, 57), (v4, 57), (v5, 57), (v6, 57), (v7, 57)] v1 v2 57 57 57 rfl rfl hvs
      (by norm_num [List.map_cons, List.map_nil, List.sum_cons, List.sum_nil])
  obtain ⟨B2, R2, hU2, hB2, hR2⟩ :=
    streamT_decomp2 57 [(v0, 57), (v1, 57), (v2, 57), (v3, 57), (v4, 57), (v5, 57), (v6, 57), (v7, 57)] [(v0, 57), (v1, 57)] [(v4, 57), (v5, 57), (v6, 57), (v7, 57)] v2 v3 57 57 114 rfl rfl hvs
      (by norm_num [List.map_cons, List.map_nil, List.sum_cons, List.sum_nil])
  obtain ⟨B3, R3, hU3, hB3, hR3⟩ :=
    streamT_decomp2 57 [(v0, 57), (v1, 57), (v2, 57), (v3, 57), (v4, 57), (v5, 57), (v6, 57), (v7, 57)] [(v0, 57), (v1, 57), (v2, 57)] [(v5, 57), (v6, 57), (v7, 57)] v3 v4 57 57 171 rfl rfl hvs
      (by norm_num [List.map_cons, List.map_nil, List.sum_cons, List.sum_nil])
  obtain ⟨B4, R4, hU4, hB4, hR4⟩ :=
    streamT_decomp2 57 [(v0, 57), (v1, 57), (v2, 57), (v3, 57), (v4, 57), (v5, 57), (v6, 57), (v7, 57)] [(v0, 57), (v1, 57), (v2, 57), (v3, 57)] [(v6, 57), (v7, 57)] v4 v5 57 57 228 rfl rfl hvs
      (by norm_num [List.map_cons, List.map_nil, List.sum_cons, List.sum_nil])
  obtain ⟨B5, R5, hU5, hB5, hR5⟩ :=
    streamT_decomp2 57 [(v0, 57), (v1, 57), (v2, 57), (v3, 57), (v4, 57), (v5, 57), (v6, 57), (v7, 57)] [(v0, 57), (v1, 57), (v2, 57), (v3, 57), (v4, 57)] [(v7, 57)] v5 v6 57 57 285 rfl rfl hvs
      (by norm_num [List.map_cons, List.map_nil, List.sum_cons, List.sum_nil])
  obtain ⟨B6, R6, hU6, hB6, hR6⟩ :=
    streamT_decomp2 57 [(v0, 57), (v1, 57), (v2, 57), (v3, 57), (v4, 57), (v5, 57), (v6, 57), (v7, 57)] [(v0, 57), (v1, 57), (v2, 57), (v3, 57), (v4, 57), (v5, 57)] [] v6 v7 57 57 342 rfl rfl hvs
      (by norm_num [List.map_cons, List.map_nil, List.sum_cons, List.sum_nil])
  rw [key, key2]
  simp only [List.cons.injEq]
  refine ⟨?_, ?_, ?_, ?_, ?_, ?_, ?_, ?_, ?_, ?_, ?_, ?_, ?_, ?_, ?_, ?_, ?_, ?_, ?_, ?_, ?_, ?_, ?_, ?_, ?_, ?_, ?_, ?_, ?_, ?_, ?_, ?_, ?_, ?_, ?_, ?_, ?_, ?_, ?_, ?_, ?_, ?_, ?_, ?_, ?_, ?_, ?_, ?_, ?_, ?_, ?_, ?_, ?_, ?_, ?_, ?_, ?_, trivial⟩
  · rw [hT0]
    exact byteSpec_mid 57 A0 v0 S0 (8 * 57 - 0 - 57) 57 0 49 hA0 hS0
      (by norm_num) (by norm_num)
  · rw [hT0]
    exact byteSpec_mid 57 A0 v0 S0 (8 * 57 - 0 - 57) 57 1 41 hA0 hS0
      (by norm_num) (by norm_num)
  · rw [hT0]
    exact byteSpec_mid 57 A0 v0 S0 (8 * 57 - 0 - 57) 57 2 33 hA0 hS0
      (by norm_num) (by norm_num)
  · rw [hT0]
    exact byteSpec_mid 57 A0 v0 S0 (8 * 57 - 0 - 57) 57 3 25 hA0 hS0
      (by norm_num) (by norm_num)
  · rw [hT0]
    exact byteSpec_mid 57 A0 v0 S0 (8 * 57 - 0 - 57) 57 4 17 hA0 hS0
      (by norm_num) (by norm_num)
  · rw [hT0]
    exact byteSpec_mid 57 A0 v0 S0 (8 * 57 - 0 - 57) 57 5 9 hA0 hS0
      (by norm_num) (by norm_num)
  · rw [hT0]
    exact byteSpec_mid 57 A0 v0 S0 (8 * 57 - 0 - 57) 57 6 1 hA0 hS0
      (by norm_num) (by norm_num)
  · rw [hU0]
    exact byteSpec_bnd 57 B0 v0 v1 R0 (8 * 57 - 0 - 57 - 57) 7 1 7 50 1 127 57 hB0 hv0 hv1 hR0
      (by norm_num) (by norm_num) (by norm_num) (by norm_num) (by norm_num)
  · rw [hT1]
    exact byteSpec_mid 57 A1 v1 S1 (8 * 57 - 57 - 57) 57 8 42 hA1 hS1
      (by norm_num) (by norm_num)
  · rw [hT1]
    exact byteSpec_mid 57 A1 v1 S1 (8 * 57 - 57 - 57) 57 9 34 hA1 hS1
      (by norm_num) (by norm_num)
  · rw [hT1]
    exact byteSpec_mid 57 A1 v1 S1 (8 * 57 - 57 - 57) 57 10 26 hA1 hS1
      (by norm_num) (by norm_num)
  · rw [hT1]
    exact byteSpec_mid 57 A1 v1 S1 (8 * 57 - 57 - 57) 57 11 18 hA1 hS1
      (by norm_num) (by norm_num)
  · rw [hT1]
    exact byteSpec_mid 57 A1 v1 S1 (8 * 57 - 57 - 57) 57 12 10 hA1 hS1
      (by norm_num) (by norm_num)
  · rw [hT1]
    exact byteSpec_mid 57 A1 v1 S1 (8 * 57 - 57 - 57) 57 13 2 hA1 hS1
      (by norm_num) (by norm_num)
  · rw [hU1]
    exact byteSpec_bnd 57 B1 v1 v2 R1 (8 * 57 - 57 - 57 - 57) 14 2 6 51 3 63 57 hB1 hv1 hv2 hR1
      (by norm_num) (by norm_num) (by norm_num) (by norm_num) (by norm_num)
  · rw [hT2]
    exact byteSpec_mid 57 A2 v2 S2 (8 * 57 - 114 - 57) 57 15 43 hA2 hS2
      (by norm_num) (by norm_num)
  · rw [hT2]
    exact byteSpec_mid 57 A2 v2 S2 (8 * 57 - 114 - 57) 57 16 35 hA2 hS2
      (by norm_num) (by norm_num)
  · rw [hT2]
    exact byteSpec_mid 57 A2 v2 S2 (8 * 57 - 114 - 57) 57 17 27 hA2 hS2
      (by norm_num) (by norm_num)
  · rw [hT2]
    exact byteSpec_mid 57 A2 v2 S2 (8 * 57 - 114 - 57) 57 18 19 hA2 hS2
      (by norm_num) (by norm_num)
  · rw [hT2]
    exact byteSpec_mid 57 A2 v2 S2 (8 * 57 - 114 - 57) 57 19 11 hA2 hS2
      (by norm_num) (by norm_num)
  · rw [hT2]
    exact byteSpec_mid 57 A2 v2 S2 (8 * 57 - 114 - 57) 57 20 3 hA2 hS2
      (by norm_num) (by norm_num)
  · rw [hU2]
    exact byteSpec_bnd 57 B2 v2 v3 R2 (8 * 57 - 114 - 57 - 57) 21 3 5 52 7 31 57 hB2 hv2 hv3 hR2
      (by norm_num) (by norm_num) (by norm_num) (by norm_num) (by norm_num)
  · rw [hT3]
    exact byteSpec_mid 57 A3 v3 S3 (8 * 57 - 171 - 57) 57 22 44 hA3 hS3
      (by norm_num) (by norm_num)
  · rw [hT3]
    exact byteSpec_mid 57 A3 v3 S3 (8 * 57 - 171 - 57) 57 23 36 hA3 hS3
      (by norm_num) (by norm_num)
  · rw [hT3]
    exact byteSpec_mid 57 A3 v3 S3 (8 * 57 - 171 - 57) 57 24 28 hA3 hS3
      (by norm_num) (by norm_num)
  · rw [hT3]
    exact byteSpec_mid 57 A3 v3 S3 (8 * 57 - 171 - 57) 57 25 20 hA3 hS3
      (by norm_num) (by norm_num)
  · rw [hT3]
    exact byteSpec_mid 57 A3 v3 S3 (8 * 57 - 171 - 57) 57 26 12 hA3 hS3
      (by norm_num) (by norm_num)
  · rw [hT3]
    exact byteSpec_mid 57 A3 v3 S3 (8 * 57 - 171 - 57) 57 27 4 hA3 hS3
      (by norm_num) (by norm_num)
  · rw [hU3]
    exact byteSpec_bnd 57 B3 v3 v4 R3 (8 * 57 - 171 - 57 - 57) 28 4 4 53 15 15 57 hB3 hv3 hv4 hR3
      (by norm_num) (by norm_num) (by norm_num) (by norm_num) (by norm_num)
  · rw [hT4]
    exact byteSpec_mid 57 A4 v4 S4 (8 * 57 - 228 - 57) 57 29 45 hA4 hS4
      (by norm_num) (by norm_num)
  · rw [hT4]
    exact byteSpec_mid 57 A4 v4 S4 (8 * 57 - 228 - 57) 57 30 37 hA4 hS4
      (by norm_num) (by norm_num)
  · rw [hT4]
    exact byteSpec_mid 57 A4 v4 S4 (8 * 57 - 228 - 57) 57 31 29 hA4 hS4
      (by norm_num) (by norm_num)
  · rw [hT4]
    exact byteSpec_mid 57 A4 v4 S4 (8 * 57 - 228 - 57) 57 32 21 hA4 hS4
      (by norm_num) (by norm_num)
  · rw [hT4]
    exact byteSpec_mid 57 A4 v4 S4 (8 * 57 - 228 - 57) 57 33 13 hA4 hS4
      (by norm_num) (by norm_num)
  · rw [hT4]
    exact byteSpec_mid 57 A4 v4 S4 (8 * 57 - 228 - 57) 57 34 5 hA4 hS4
      (by norm_num) (by norm_num)
  · rw [hU4]
    exact byteSpec_bnd 57 B4 v4 v5 R4 (8 * 57 - 228 - 57 - 57) 35 5 3 54 31 7 57 hB4 hv4 hv5 hR4
      (by norm_num) (by norm_num) (by norm_num) (by norm_num) (by norm_num)
  · rw [hT5]
    exact byteSpec_mid 57 A5 v5 S5 (8 * 57 - 285 - 57) 57 36 46 hA5 hS5
      (by norm_num) (by norm_num)
  · rw [hT5]
    exact byteSpec_mid 57 A5 v5 S5 (8 * 57 - 285 - 57) 57 37 38 hA5 hS5
      (by norm_num) (by norm_num)
  · rw [hT5]
    exact byteSpec_mid 57 A5 v5 S5 (8 * 57 - 285 - 57) 57 38 30 hA5 hS5
      (by norm_num) (by norm_num)
  · rw [hT5]
    exact byteSpec_mid 57 A5 v5 S5 (8 * 57 - 285 - 57) 57 39 22 hA5 hS5
      (by norm_num) (by norm_num)
  · rw [hT5]
    exact byteSpec_mid 57 A5 v5 S5 (8 * 57 - 285 - 57) 57 40 14 hA5 hS5
      (by norm_num) (by norm_num)
  · rw [hT5]
    exact byteSpec_mid 57 A5 v5 S5 (8 * 57 - 285 - 57) 57 41 6 hA5 hS5
      (by norm_num) (by norm_num)
  · rw [hU5]
    exact byteSpec_bnd 57 B5 v5 v6 R5 (8 * 57 - 285 - 57 - 57) 42 6 2 55 63 3 57 hB5 hv5 hv6 hR5
      (by norm_num) (by norm_num) (by norm_num) (by norm_num) (by norm_num)
  · rw [hT6]
    exact byteSpec_mid 57 A6 v6 S6 (8 * 57 - 342 - 57) 57 43 47 hA6 hS6
      (by norm_num) (by norm_num)
  · rw [hT6]
    exact byteSpec_mid 57 A6 v6 S6 (8 * 57 - 342 - 57) 57 44 39 hA6 hS6
      (by norm_num) (by norm_num)
  · rw [hT6]
    exact byteSpec_mid 57 A6 v6 S6 (8 * 57 - 342 - 57) 57 45 31 hA6 hS6
      (by norm_num) (by norm_num)
  · rw [hT6]
    exact byteSpec_mid 57 A6 v6 S6 (8 * 57 - 342 - 57) 57 46 23 hA6 hS6
      (by norm_num) (by norm_num)
  · rw [hT6]
    exact byteSpec_mid 57 A6 v6 S6 (8 * 57 - 342 - 57) 57 47 15 hA6 hS6
      (by norm_num) (by norm_num)
  · rw [hT6]
    exact byteSpec_mid 57 A6 v6 S6 (8 * 57 - 342 - 57) 57 48 7 hA6 hS6
      (by norm_num) (by norm_num)
  · rw [hU6]
    exact byteSpec_bnd 57 B6 v6 v7 R6 (8 * 57 - 342 - 57 - 57) 49 7 1 56 127 1 57 hB6 hv6 hv7 hR6
      (by norm_num) (by norm_num) (by norm_num) (by norm_num) (by norm_num)
  · rw [hT7]
    exact byteSpec_mid 57 A7 v7 S7 (8 * 57 - 399 - 57) 57 50 48 hA7 hS7
      (by norm_num) (by norm_num)
  · rw [hT7]
    exact byteSpec_mid 57 A7 v7 S7 (8 * 57 - 399 - 57) 57 51 40 hA7 hS7
      (by norm_num) (by norm_num)
  · rw [hT7]
    exact byteSpec_mid 57 A7 v7 S7 (8 * 57 - 399 - 57) 57 52 32 hA7 hS7
      (by norm_num) (by norm_num)
  · rw [hT7]
    exact byteSpec_mid 57 A7 v7 S7 (8 * 57 - 399 - 57) 57 53 24 hA7 hS7
      (by norm_num) (by norm_num)
  · rw [hT7]
    exact byteSpec_mid 57 A7 v7 S7 (8 * 57 - 399 - 57) 57 54 16 hA7 hS7
      (by norm_num) (by norm_num)
  · rw [hT7]
    exact byteSpec_mid 57 A7 v7 S7 (8 * 57 - 399 - 57) 57 55 8 hA7 hS7
      (by norm_num) (by norm_num)
  · rw [hT7]
    exact byteSpec_mid0 57 A7 v7 S7 (8 * 57 - 399 - 57) 57 56 hA7 hS7
      (by norm_num) (by norm_num)

set_option maxRecDepth 16000 in
set_option maxHeartbeats 1000000 in
theorem c5_pack_eq_58 (v0 v1 v2 v3 v4 v5 v6 v7 : Nat) (hv0 : v0 < 2 ^ 58) (hv1 : v1 < 2 ^ 58) (hv2 : v2 < 2 ^ 58) (hv3 : v3 < 2 ^ 58) (hv4 : v4 < 2 ^ 58) (hv5 : v5 < 2 ^ 58) (hv6 : v6 < 2 ^ 58) (hv7 : v7 < 2 ^ 58) :
    (packSeq (BitPacker.new (List.replicate 58 0)) [(v0, 58), (v1, 58), (v2, 58), (v3, 58), (v4, 58), (v5, 58), (v6, 58), (v7, 58)]).bytes
      = pack_bits_58 v0 v1 v2 v3 v4 v5 v6 v7 := by
  have hvs : ∀ p ∈ ([(v0, 58), (v1, 58), (v2, 58), (v3, 58), (v4, 58), (v5, 58), (v6, 58), (v7, 58)] : List (Nat × Nat)), p.1 < 2 ^ p.2 := by
    intro p hp
    simp only [List.mem_cons, List.not_mem_nil, or_false] at hp
    rcases hp with rfl | rfl | rfl | rfl | rfl | rfl | rfl | rfl
    exacts [hv0, hv1, hv2, hv3, hv4, hv5, hv6, hv7]
  obtain ⟨-, -, -, ⟨hlen, hbytes⟩, -, -⟩ :=
    packSeq_inv 58 [(v0, 58), (v1, 58), (v2, 58), (v3, 58), (v4, 58), (v5, 58), (v6, 58), (v7, 58)] 0 0 _ hvs
      (by norm_num [List.map_cons, List.map_nil, List.sum_cons, List.sum_nil]) (packInv_init 58)
  have key : (packSeq (BitPacker.new (List.replicate 58 0)) [(v0, 58), (v1, 58), (v2, 58), (v3, 58), (v4, 58), (v5, 58), (v6, 58), (v7, 58)]).bytes
      = [ ByteSpec 58 (streamT 58 [(v0, 58), (v1, 58), (v2, 58), (v3, 58), (v4, 58), (v5, 58), (v6, 58), (v7, 58)] 0 0) 0,
          ByteSpec 58 (streamT 58 [(v0, 58), (v1, 58), (v2, 58), (v3, 58), (v4, 58), (v5, 58), (v6, 58), (v7, 58)] 0 0) 1,
          ByteSpec 58 (streamT 58 [(v0, 58), (v1, 58), (v2, 58), (v3, 58), (v4, 58), (v5, 58), (v6, 58), (v7, 58)] 0 0) 2,
          ByteSpec 58 (streamT 58 [(v0, 58), (v1, 58), (v2, 58), (v3, 58), (v4, 58), (v5, 58), (v6, 58), (v7, 58)] 0 0) 3,
          ByteSpec 58 (streamT 58 [(v0, 58), (v1, 58), (v2, 58), (v3, 58), (v4, 58), (v5, 58), (v6, 58), (v7, 58)] 0 0) 4,
          ByteSpec 58 (streamT 58 [(v0, 58), (v1, 58), (v2, 58), (v3, 58), (v4, 58), (v5, 58), (v6, 58), (v7, 58)] 0 0) 5,
          ByteSpec 58 (streamT 58 [(v0, 58), (v1, 58), (v2, 58), (v3, 58), (v4, 58), (v5, 58), (v6, 58), (v7, 58)] 0 0) 6,
          ByteSpec 58 (streamT 58 [(v0, 58), (v1, 58), (v2, 58), (v3, 58), (v4, 58), (v5, 58), (v6, 58), (v7, 58)] 0 0) 7,
          ByteSpec 58 (streamT 58 [(v0, 58), (v1, 58), (v2, 58), (v3, 58), (v4, 58), (v5, 58), (v6, 58), (v7, 58)] 0 0) 8,
          ByteSpec 58 (streamT 58 [(v0, 58), (v1, 58), (v2, 58), (v3, 58), (v4, 58), (v5, 58), (v6, 58), (v7, 58)] 0 0) 9,
          ByteSpec 58 (streamT 58 [(v0, 58), (v1, 58), (v2, 58), (v3, 58), (v4, 58), (v5, 58), (v6, 58), (v7, 58)] 0 0) 10,
          ByteSpec 58 (streamT 58 [(v0, 58), (v1, 58), (v2, 58), (v3, 58), (v4, 58), (v5, 58), (v6, 58), (v7, 58)] 0 0) 11,
          ByteSpec 58 (streamT 58 [(v0, 58), (v1, 58), (v2, 58), (v3, 58), (v4, 58), (v5, 58), (v6, 58), (v7, 58)] 0 0) 12,
          ByteSpec 58 (streamT 58 [(v0, 58), (v1, 58), (v2, 58), (v3, 58), (v4, 58), (v5, 58), (v6, 58), (v7, 58)] 0 0) 13,
          ByteSpec 58 (streamT 58 [(v0, 58), (v1, 58), (v2, 58), (v3, 58), (v4, 58), (v5, 58), (v6, 58), (v7, 58)] 0 0) 14,
          ByteSpec 58 (streamT 58 [(v0, 58), (v1, 58), (v2, 58), (v3, 58), (v4, 58), (v5, 58), (v6, 58), (v7, 58)] 0 0) 15,
          ByteSpec 58 (streamT 58 [(v0, 58), (v1, 58), (v2, 58), (v3, 58), (v4, 58), (v5, 58), (v6, 58), (v7, 58)] 0 0) 16,
          ByteSpec 58 (streamT 58 [(v0, 58), (v1, 58), (v2, 58), (v3, 58), (v4, 58), (v5, 58), (v6, 58), (v7, 58)] 0 0) 17,
          ByteSpec 58 (streamT 58 [(v0, 58), (v1, 58), (v2, 58), (v3, 58), (v4, 58), (v5, 58), (v6, 58), (v7, 58)] 0 0) 18,
          ByteSpec 58 (streamT 58 [(v0, 58), (v1, 58), (v2, 58), (v3, 58), (v4, 58), (v5, 58), (v6, 58), (v7, 58)] 0 0) 19,
          ByteSpec 58 (streamT 58 [(v0, 58), (v1, 58), (v2, 58), (v3, 58), (v4, 58), (v5, 58), (v6, 58), (v7, 58)] 0 0) 20,
          ByteSpec 58 (streamT 58 [(v0, 58), (v1, 58), (v2, 58), (v3, 58), (v4, 58), (v5, 58), (v6, 58), (v7, 58)] 0 0) 21,
          ByteSpec 58 (streamT 58 [(v0, 58), (v1, 58), (v2, 58), (v3, 58), (v4, 58), (v5, 58), (v6, 58), (v7, 58)] 0 0) 22,
          ByteSpec 58 (streamT 58 [(v0, 58), (v1, 58), (v2, 58), (v3, 58), (v4, 58), (v5, 58), (v6, 58), (v7, 58)] 0 0) 23,
          ByteSpec 58 (streamT 58 [(v0, 58), (v1, 58), (v2, 58), (v3, 58), (v4, 58), (v5, 58), (v6, 58), (v7, 58)] 0 0) 24,
          ByteSpec 58 (streamT 58 [(v0, 58), (v1, 58), (v2, 58), (v3, 58), (v4, 58), (v5, 58), (v6, 58), (v7, 58)] 0 0) 25,
          ByteSpec 58 (streamT 58 [(v0, 58), (v1, 58), (v2, 58), (v3, 58), (v4, 58), (v5, 58), (v6, 58), (v7, 58)] 0 0) 26,
          ByteSpec 58 (streamT 58 [(v0, 58), (v1, 58), (v2, 58), (v3, 58), (v4, 58), (v5, 58), (v6, 58), (v7, 58)] 0 0) 27,
          ByteSpec 58 (streamT 58 [(v0, 58), (v1, 58), (v2, 58), (v3, 58), (v4, 58), (v5, 58), (v6, 58), (v7, 58)] 0 0) 28,
          ByteSpec 58 (streamT 58 [(v0, 58), (v1, 58), (v2, 58), (v3, 58), (v4, 58), (v5, 58), (v6, 58), (v7, 58)] 0 0) 29,
          ByteSpec 58 (streamT 58 [(v0, 58), (v1, 58), (v2, 58), (v3, 58), (v4, 58), (v5, 58), (v6, 58), (v7, 58)] 0 0) 30,
          ByteSpec 58 (streamT 58 [(v0, 58), (v1, 58), (v2, 58), (v3, 58), (v4, 58), (v5, 58), (v6, 58), (v7, 58)] 0 0) 31,
          ByteSpec 58 (streamT 58 [(v0, 58), (v1, 58), (v2, 58), (v3, 58), (v4, 58), (v5, 58), (v6, 58), (v7, 58)] 0 0) 32,
          ByteSpec 58 (streamT 58 [(v0, 58), (v1, 58), (v2, 58), (v3, 58), (v4, 58), (v5, 58), (v6, 58), (v7, 58)] 0 0) 33,
          ByteSpec 58 (streamT 58 [(v0, 58), (v1, 58), (v2, 58), (v3, 58), (v4, 58), (v5, 58), (v6, 58), (v7, 58)] 0 0) 34,
          ByteSpec 58 (streamT 58 [(v0, 58), (v1, 58), (v2, 58), (v3, 58), (v4, 58), (v5, 58), (v6, 58), (v7, 58)] 0 0) 35,
          ByteSpec 58 (streamT 58 [(v0, 58), (v1, 58), (v2, 58), (v3, 58), (v4, 58), (v5, 58), (v6, 58), (v7, 58)] 0 0) 36,
          ByteSpec 58 (streamT 58 [(v0, 58), (v1, 58), (v2, 58), (v3, 58), (v4, 58), (v5, 58), (v6, 58), (v7, 58)] 0 0) 37,
          ByteSpec 58 (streamT 58 [(v0, 58), (v1, 58), (v2, 58), (v3, 58), (v4, 58), (v5, 58), (v6, 58), (v7, 58)] 0 0) 38,
          ByteSpec 58 (streamT 58 [(v0, 58), (v1, 58), (v2, 58), (v3, 58), (v4, 58), (v5, 58), (v6, 58), (v7, 58)] 0 0) 39,
          ByteSpec 58 (streamT 58 [(v0, 58), (v1, 58), (v2, 58), (v3, 58), (v4, 58), (v5, 58), (v6, 58), (v7, 58)] 0 0) 40,
          ByteSpec 58 (streamT 58 [(v0, 58), (v1, 58), (v2, 58), (v3, 58), (v4, 58), (v5, 58), (v6, 58), (v7, 58)] 0 0) 41,
          ByteSpec 58 (streamT 58 [(v0, 58), (v1, 58), (v2, 58), (v3, 58), (v4, 58), (v5, 58), (v6, 58), (v7, 58)] 0 0) 42,
          ByteSpec 58 (streamT 58 [(v0, 58), (v1, 58), (v2, 58), (v3, 58), (v4, 58), (v5, 58), (v6, 58), (v7, 58)] 0 0) 43,
          ByteSpec 58 (streamT 58 [(v0, 58), (v1, 58), (v2, 58), (v3, 58), (v4, 58), (v5, 58), (v6, 58), (v7, 58)] 0 0) 44,
          ByteSpec 58 (streamT 58 [(v0, 58), (v1, 58), (v2, 58), (v3, 58), (v4, 58), (v5, 58), (v6, 58), (v7, 58)] 0 0) 45,
          ByteSpec 58 (streamT 58 [(v0, 58), (v1, 58), (v2, 58), (v3, 58), (v4, 58), (v5, 58), (v6, 58), (v7, 58)] 0 0) 46,
          ByteSpec 58 (streamT 58 [(v0, 58), (v1, 58), (v2, 58), (v3, 58), (v4, 58), (v5, 58), (v6, 58), (v7, 58)] 0 0) 47,
          ByteSpec 58 (streamT 58 [(v0, 58), (v1, 58), (v2, 58), (v3, 58), (v4, 58), (v5, 58), (v6, 58), (v7, 58)] 0 0) 48,
          ByteSpec 58 (streamT 58 [(v0, 58), (v1, 58), (v2, 58), (v3, 58), (v4, 58), (v5, 58), (v6, 58), (v7, 58)] 0 0) 49,
          ByteSpec 58 (streamT 58 [(v0, 58), (v1, 58), (v2, 58), (v3, 58), (v4, 58), (v5, 58), (v6, 58), (v7, 58)] 0 0) 50,
          ByteSpec 58 (streamT 58 [(v0, 58), (v1, 58), (v2, 58), (v3, 58), (v4, 58), (v5, 58), (v6, 58), (v7, 58)] 0 0) 51,
          ByteSpec 58 (streamT 58 [(v0, 58), (v1, 58), (v2, 58), (v3, 58), (v4, 58), (v5, 58), (v6, 58), (v7, 58)] 0 0) 52,
          ByteSpec 58 (streamT 58 [(v0, 58), (v1, 58), (v2, 58), (v3, 58), (v4, 58), (v5, 58), (v6, 58), (v7, 58)] 0 0) 53,
          ByteSpec 58 (streamT 58 [(v0, 58), (v1, 58), (v2, 58), (v3, 58), (v4, 58), (v5, 58), (v6, 58), (v7, 58)] 0 0) 54,
          ByteSpec 58 (streamT 58 [(v0, 58), (v1, 58), (v2, 58), (v3, 58), (v4, 58), (v5, 58), (v6, 58), (v7, 58)] 0 0) 55,
          ByteSpec 58 (streamT 58 [(v0, 58), (v1, 58), (v2, 58), (v3, 58), (v4, 58), (v5, 58), (v6, 58), (v7, 58)] 0 0) 56,
          ByteSpec 58 (streamT 58 [(v0, 58), (v1, 58), (v2, 58), (v3, 58), (v4, 58), (v5, 58), (v6, 58), (v7, 58)] 0 0) 57 ] :=
    (list_eq_map_range_of_getD _ _ 58 hlen hbytes).trans (by rfl)
  have key2 : pack_bits_58 v0 v1 v2 v3 v4 v5 v6 v7
      = [ u8 (((v0 >>> 50) &&& 0xff)),
          u8 (((v0 >>> 42) &&& 0xff)),
          u8 (((v0 >>> 34) &&& 0xff)),
          u8 (((v0 >>> 26) &&& 0xff)),
          u8 (((v0 >>> 18) &&& 0xff)),
          u8 (((v0 >>> 10) &&& 0xff)),
          u8 (((v0 >>> 2) &&& 0xff)),
          u8 (((((v0) &&& 0x3) <<< 6) ||| ((v1 >>> 52) &&& 0x3f))),
          u8 (((v1 >>> 44) &&& 0xff)),
          u8 (((v1 >>> 36) &&& 0xff)),
          u8 (((v1 >>> 28) &&& 0xff)),
          u8 (((v1 >>> 20) &&& 0xff)),
          u8 (((v1 >>> 12) &&& 0xff)),
          u8 (((v1 >>> 4) &&& 0xff)),
          u8 (((((v1) &&& 0xf) <<< 4) ||| ((v2 >>> 54) &&& 0xf))),
          u8 (((v2 >>> 46) &&& 0xff)),
          u8 (((v2 >>> 38) &&& 0xff)),
          u8 (((v2 >>> 30) &&& 0xff)),
          u8 (((v2 >>> 22) &&& 0xff)),
          u8 (((v2 >>> 14) &&& 0xff)),
          u8 (((v2 >>> 6) &&& 0xff)),
          u8 (((((v2) &&& 0x3f) <<< 2) ||| ((v3 >>> 56) &&& 0x3))),
          u8 (((v3 >>> 48) &&& 0xff)),
          u8 (((v3 >>> 40) &&& 0xff)),
          u8 (((v3 >>> 32) &&& 0xff)),
          u8 (((v3 >>> 24) &&& 0xff)),
          u8 (((v3 >>> 16) &&& 0xff)),
          u8 (((v3 >>> 8) &&& 0xff)),
          u8 (((v3) &&& 0xff)),
          u8 (((v4 >>> 50) &&& 0xff)),
          u8 (((v4 >>> 42) &&& 0xff)),
          u8 (((v4 >>> 34) &&& 0xff)),
          u8 (((v4 >>> 26) &&& 0xff)),
          u8 (((v4 >>> 18) &&& 0xff)),
          u8 (((v4 >>> 10) &&& 0xff)),
          u8 (((v4 >>> 2) &&& 0xff)),
          u8 (((((v4) &&& 0x3) <<< 6) ||| ((v5 >>> 52) &&& 0x3f))),
          u8 (((v5 >>> 44) &&& 0xff)),
          u8 (((v5 >>> 36) &&& 0xff)),
          u8 (((v5 >>> 28) &&& 0xff)),
          u8 (((v5 >>> 20) &&& 0xff)),
          u8 (((v5 >>> 12) &&& 0xff)),
          u8 (((v5 >>> 4) &&& 0xff)),
          u8 (((((v5) &&& 0xf) <<< 4) ||| ((v6 >>> 54) &&& 0xf))),
          u8 (((v6 >>> 46) &&& 0xff)),
          u8 (((v6 >>> 38) &&& 0xff)),
          u8 (((v6 >>> 30) &&& 0xff)),
          u8 (((v6 >>> 22) &&& 0xff)),
          u8 (((v6 >>> 14) &&& 0xff)),
          u8 (((v6 >>> 6) &&& 0xff)),
          u8 (((((v6) &&& 0x3f) <<< 2) ||| ((v7 >>> 56) &&& 0x3))),
          u8 (((v7 >>> 48) &&& 0xff)),
          u8 (((v7 >>> 40) &&& 0xff)),
          u8 (((v7 >>> 32) &&& 0xff)),
          u8 (((v7 >>> 24) &&& 0xff)),
          u8 (((v7 >>> 16) &&& 0xff)),
          u8 (((v7 >>> 8) &&& 0xff)),
          u8 (((v7) &&& 0xff)) ] := rfl
  obtain ⟨A0, S0, hT0, hA0, hS0⟩ :=
    streamT_decomp 58 [(v0, 58), (v1, 58), (v2, 58), (v3, 58), (v4, 58), (v5, 58), (v6, 58), (v7, 58)] [] [(v1, 58), (v2, 58), (v3, 58), (v4, 58), (v5, 58), (v6, 58), (v7, 58)] v0 58 0 rfl rfl hvs
      (by norm_num [List.map_cons, List.map_nil, List.sum_cons, List.sum_nil])
  obtain ⟨A1, S1, hT1, hA1, hS1⟩ :=
    streamT_decomp 58 [(v0, 58), (v1, 58), (v2, 58), (v3, 58), (v4, 58), (v5, 58), (v6, 58), (v7, 58)] [(v0, 58)] [(v2, 58), (v3, 58), (v4, 58), (v5, 58), (v6, 58), (v7, 58)] v1 58 58 rfl rfl hvs
      (by norm_num [List.map_cons, List.map_nil, List.sum_cons, List.sum_nil])
  obtain ⟨A2, S2, hT2, hA2, hS2⟩ :=
    streamT_decomp 58 [(v0, 58), (v1, 58), (v2, 58), (v3, 58), (v4, 58), (v5, 58), (v6, 58), (v7, 58)] [(v0, 58), (v1, 58)] [(v3, 58), (v4, 58), (v5, 58), (v6, 58), (v7, 58)] v2 58 116 rfl rfl hvs
      (by norm_num [List.map_cons, List.map_nil, List.sum_cons, List.sum_nil])
  obtain ⟨A3, S3, hT3, hA3, hS3⟩ :=
    streamT_decomp 58 [(v0, 58), (v1, 58), (v2, 58), (v3, 58), (v4, 58), (v5, 58), (v6, 58), (v7, 58)] [(v0, 58), (v1, 58), (v2, 58)] [(v4, 58), (v5, 58), (v6, 58), (v7, 58)] v3 58 174 rfl rfl hvs
      (by norm_num [List.map_cons, List.map_nil, List.sum_cons, List.sum_nil])
  obtain ⟨A4, S4, hT4, hA4, hS4⟩ :=
    streamT_decomp 58 [(v0, 58), (v1, 58), (v2, 58), (v3, 58), (v4, 58), (v5, 58), (v6, 58), (v7, 58)] [(v0, 58), (v1, 58), (v2, 58), (v3, 58)] [(v5, 58), (v6, 58), (v7, 58)] v4 58 232 rfl rfl hvs
      (by norm_num [List.map_cons, List.map_nil, List.sum_cons, List.sum_nil])
  obtain ⟨A5, S5, hT5, hA5, hS5⟩ :=
    streamT_decomp 58 [(v0, 58), (v1, 58), (v2, 58), (v3, 58), (v4, 58), (v5, 58), (v6, 58), (v7, 58)] [(v0, 58), (v1, 58), (v2, 58), (v3, 58), (v4, 58)] [(v6, 58), (v7, 58)] v5 58 290 rfl rfl hvs
      (by norm_num [List.map_cons, List.map_nil, List.sum_cons, List.sum_nil])
  obtain ⟨A6, S6, hT6, hA6, hS6⟩ :=
    streamT_decomp 58 [(v0, 58), (v1, 58), (v2, 58), (v3, 58), (v4, 58), (v5, 58), (v6, 58), (v7, 58)] [(v0, 58), (v1, 58), (v2, 58), (v3, 58), (v4, 58), (v5, 58)] [(v7, 58)] v6 58 348 rfl rfl hvs
      (by norm_num [List.map_cons, List.map_nil, List.sum_cons, List.sum_nil])
  obtain ⟨A7, S7, hT7, hA7, hS7⟩ :=
    streamT_decomp 58 [(v0, 58), (v1, 58), (v2, 58), (v3, 58), (v4, 58), (v5, 58), (v6, 58), (v7, 58)] [(v0, 58), (v1, 58), (v2, 58), (v3, 58), (v4, 58), (v5, 58), (v6, 58)] [] v7 58 406 rfl rfl hvs
      (by norm_num [List.map_cons, List.map_nil, List.sum_cons, List.sum_nil])
  obtain ⟨B0, R0, hU0, hB0, hR0⟩ :=
    streamT_decomp2 58 [(v0, 58), (v1, 58), (v2, 58), (v3, 58), (v4, 58), (v5, 58), (v6, 58), (v7, 58)] [] [(v2, 58), (v3, 58), (v4, 58), (v5, 58), (v6, 58), (v7, 58)] v0 v1 58 58 0 rfl rfl hvs
      (by norm_num [List.map_cons, List.map_nil, List.sum_cons, List.sum_nil])
  obtain ⟨B1, R1, hU1, hB1, hR1⟩ :=
    streamT_decomp2 58 [(v0, 58), (v1, 58), (v2, 58), (v3, 58), (v4, 58), (v5, 58), (v6, 58), (v7, 58)] [(v0, 58)] [(v3, 58), (v4, 58), (v5, 58), (v6, 58), (v7, 58)] v1 v2 58 58 58 rfl rfl hvs
      (by norm_num [List.map_cons, List.map_nil, List.sum_cons, List.sum_nil])
  obtain ⟨B2, R2, hU2, hB2, hR2⟩ :=
    streamT_decomp2 58 [(v0, 58), (v1, 58), (v2, 58), (v3, 58), (v4, 58), (v5, 58), (v6, 58), (v7, 58)] [(v0, 58), (v1, 58)] [(v4, 58), (v5, 58), (v6, 58), (v7, 58)] v2 v3 58 58 116 rfl rfl hvs
      (by norm_num [List.map_cons, List.map_nil, List.sum_cons, List.sum_nil])
  obtain ⟨B4, R4, hU4, hB4, hR4⟩ :=
    streamT_decomp2 58 [(v0, 58), (v1, 58), (v2, 58), (v3, 58), (v4, 58), (v5, 58), (v6, 58), (v7, 58)] [(v0, 58), (v1, 58), (v2, 58), (v3, 58)] [(v6, 58), (v7, 58)] v4 v5 58 58 232 rfl rfl hvs
      (by norm_num [List.map_cons, List.map_nil, List.sum_cons, List.sum_nil])
  obtain ⟨B5, R5, hU5, hB5, hR5⟩ :=
    streamT_decomp2 58 [(v0, 58), (v1, 58), (v2, 58), (v3, 58), (v4, 58), (v5, 58), (v6, 58), (v7, 58)] [(v0, 58), (v1, 58), (v2, 58), (v3, 58), (v4, 58)] [(v7, 58)] v5 v6 58 58 290 rfl rfl hvs
      (by norm_num [List.map_cons, List.map_nil, List.sum_cons, List.sum_nil])
  obtain ⟨B6, R6, hU6, hB6, hR6⟩ :=
    streamT_decomp2 58 [(v0, 58), (v1, 58), (v2, 58), (v3, 58), (v4, 58), (v5, 58), (v6, 58), (v7, 58)] [(v0, 58), (v1, 58), (v2, 58), (v3, 58), (v4, 58), (v5, 58)] [] v6 v7 58 58 348 rfl rfl hvs
      (by norm_num [List.map_cons, List.map_nil, List.sum_cons, List.sum_nil])
  rw [key, key2]
  simp only [List.cons.injEq]
  refine ⟨?_, ?_, ?_, ?_, ?_, ?_, ?_, ?_, ?_, ?_, ?_, ?_, ?_, ?_, ?_, ?_, ?_, ?_, ?_, ?_, ?_, ?_, ?_, ?_, ?_, ?_, ?_, ?_, ?_, ?_, ?_, ?_, ?_, ?_, ?_, ?_, ?_, ?_, ?_, ?_, ?_, ?_, ?_, ?_, ?_, ?_, ?_, ?_, ?_, ?_, ?_, ?_, ?_, ?_, ?_, ?_, ?_, ?_, trivial⟩
  · rw [hT0]
    exact byteSpec_mid 58 A0 v0 S0 (8 * 58 - 0 - 58) 58 0 50 hA0 hS0
      (by norm_num) (by norm_num)
  · rw [hT0]
    exact byteSpec_mid 58 A0 v0 S0 (8 * 58 - 0 - 58) 58 1 42 hA0 hS0
      (by norm_num) (by norm_num)
  · rw [hT0]
    exact byteSpec_mid 58 A0 v0 S0 (8 * 58 - 0 - 58) 58 2 34 hA0 hS0
      (by norm_num) (by norm_num)
  · rw [hT0]
    exact byteSpec_mid 58 A0 v0 S0 (8 * 58 - 0 - 58) 58 3 26 hA0 hS0
      (by norm_num) (by norm_num)
  · rw [hT0]
    exact byteSpec_mid 58 A0 v0 S0 (8 * 58 - 0 - 58) 58 4 18 hA0 hS0
      (by norm_num) (by norm_num)
  · rw [hT0]
    exact byteSpec_mid 58 A0 v0 S0 (8 * 58 - 0 - 58) 58 5 10 hA0 hS0
      (by norm_num) (by norm_num)
  · rw [hT0]
    exact byteSpec_mid 58 A0 v0 S0 (8 * 58 - 0 - 58) 58 6 2 hA0 hS0
      (by norm_num) (by norm_num)
  · rw [hU0]
    exact byteSpec_bnd 58 B0 v0 v1 R0 (8 * 58 - 0 - 58 - 58) 7 2 6 52 3 63 58 hB0 hv0 hv1 hR0
      (by norm_num) (by norm_num) (by norm_num) (by norm_num) (by norm_num)
  · rw [hT1]
    exact byteSpec_mid 58 A1 v1 S1 (8 * 58 - 58 - 58) 58 8 44 hA1 hS1
      (by norm_num) (by norm_num)
  · rw [hT1]
    exact byteSpec_mid 58 A1 v1 S1 (8 * 58 - 58 - 58) 58 9 36 hA1 hS1
      (by norm_num) (by norm_num)
  · rw [hT1]
    exact byteSpec_mid 58 A1 v1 S1 (8 * 58 - 58 - 58) 58 10 28 hA1 hS1
      (by norm_num) (by norm_num)
  · rw [hT1]
    exact byteSpec_mid 58 A1 v1 S1 (8 * 58 - 58 - 58) 58 11 20 hA1 hS1
      (by norm_num) (by norm_num)
  · rw [hT1]
    exact byteSpec_mid 58 A1 v1 S1 (8 * 58 - 58 - 58) 58 12 12 hA1 hS1
      (by norm_num) (by norm_num)
  · rw [hT1]
    exact byteSpec_mid 58 A1 v1 S1 (8 * 58 - 58 - 58) 58 13 4 hA1 hS1
      (by norm_num) (by norm_num)
  · rw [hU1]
    exact byteSpec_bnd 58 B1 v1 v2 R1 (8 * 58 - 58 - 58 - 58) 14 4 4 54 15 15 58 hB1 hv1 hv2 hR1
      (by norm_num) (by norm_num) (by norm_num) (by norm_num) (by norm_num)
  · rw [hT2]
    exact byteSpec_mid 58 A2 v2 S2 (8 * 58 - 116 - 58) 58 15 46 hA2 hS2
      (by norm_num) (by norm_num)
  · rw [hT2]
    exact byteSpec_mid 58 A2 v2 S2 (8 * 58 - 116 - 58) 58 16 38 hA2 hS2
      (by norm_num) (by norm_num)
  · rw [hT2]
    exact byteSpec_mid 58 A2 v2 S2 (8 * 58 - 116 - 58) 58 17 30 hA2 hS2
      (by norm_num) (by norm_num)
  · rw [hT2]
    exact byteSpec_mid 58 A2 v2 S2 (8 * 58 - 116 - 58) 58 18 22 hA2 hS2
      (by norm_num) (by norm_num)
  · rw [hT2]
    exact byteSpec_mid 58 A2 v2 S2 (8 * 58 - 116 - 58) 58 19 14 hA2 hS2
      (by norm_num) (by norm_num)
  · rw [hT2]
    exact byteSpec_mid 58 A2 v2 S2 (8 * 58 - 116 - 58) 58 20 6 hA2 hS2
      (by norm_num) (by norm_num)
  · rw [hU2]
    exact byteSpec_bnd 58 B2 v2 v3 R2 (8 * 58 - 116 - 58 - 58) 21 6 2 56 63 3 58 hB2 hv2 hv3 hR2
      (by norm_num) (by norm_num) (by norm_num) (by norm_num) (by norm_num)
  · rw [hT3]
    exact byteSpec_mid 58 A3 v3 S3 (8 * 58 - 174 - 58) 58 22 48 hA3 hS3
      (by norm_num) (by norm_num)
  · rw [hT3]
    exact byteSpec_mid 58 A3 v3 S3 (8 * 58 - 174 - 58) 58 23 40 hA3 hS3
      (by norm_num) (by norm_num)
  · rw [hT3]
    exact byteSpec_mid 58 A3 v3 S3 (8 * 58 - 174 - 58) 58 24 32 hA3 hS3
      (by norm_num) (by norm_num)
  · rw [hT3]
    exact byteSpec_mid 58 A3 v3 S3 (8 * 58 - 174 - 58) 58 25 24 hA3 hS3
      (by norm_num) (by norm_num)
  · rw [hT3]
    exact byteSpec_mid 58 A3 v3 S3 (8 * 58 - 174 - 58) 58 26 16 hA3 hS3
      (by norm_num) (by norm_num)
  · rw [hT3]
    exact byteSpec_mid 58 A3 v3 S3 (8 * 58 - 174 - 58) 58 27 8 hA3 hS3
      (by norm_num) (by norm_num)
  · rw [hT3]
    exact byteSpec_mid0 58 A3 v3 S3 (8 * 58 - 174 - 58) 58 28 hA3 hS3
      (by norm_num) (by norm_num)
  · rw [hT4]
    exact byteSpec_mid 58 A4 v4 S4 (8 * 58 - 232 - 58) 58 29 50 hA4 hS4
      (by norm_num) (by norm_num)
  · rw [hT4]
    exact byteSpec_mid 58 A4 v4 S4 (8 * 58 - 232 - 58) 58 30 42 hA4 hS4
      (by norm_num) (by norm_num)
  · rw [hT4]
    exact byteSpec_mid 58 A4 v4 S4 (8 * 58 - 232 - 58) 58 31 34 hA4 hS4
      (by norm_num) (by norm_num)
  · rw [hT4]
    exact byteSpec_mid 58 A4 v4 S4 (8 * 58 - 232 - 58) 58 32 26 hA4 hS4
      (by norm_num) (by norm_num)
  · rw [hT4]
    exact byteSpec_mid 58 A4 v4 S4 (8 * 58 - 232 - 58) 58 33 18 hA4 hS4
      (by norm_num) (by norm_num)
  · rw [hT4]
    exact byteSpec_mid 58 A4 v4 S4 (8 * 58 - 232 - 58) 58 34 10 hA4 hS4
      (by norm_num) (by norm_num)
  · rw [hT4]
    exact byteSpec_mid 58 A4 v4 S4 (8 * 58 - 232 - 58) 58 35 2 hA4 hS4
      (by norm_num) (by norm_num)
  · rw [hU4]
    exact byteSpec_bnd 58 B4 v4 v5 R4 (8 * 58 - 232 - 58 - 58) 36 2 6 52 3 63 58 hB4 hv4 hv5 hR4
      (by norm_num) (by norm_num) (by norm_num) (by norm_num) (by norm_num)
  · rw [hT5]
    exact byteSpec_mid 58 A5 v5 S5 (8 * 58 - 290 - 58) 58 37 44 hA5 hS5
      (by norm_num) (by norm_num)
  · rw [hT5]
    exact byteSpec_mid 58 A5 v5 S5 (8 * 58 - 290 - 58) 58 38 36 hA5 hS5
      (by norm_num) (by norm_num)
  · rw [hT5]
    exact byteSpec_mid 58 A5 v5 S5 (8 * 58 - 290 - 58) 58 39 28 hA5 hS5
      (by norm_num) (by norm_num)
  · rw [hT5]
    exact byteSpec_mid 58 A5 v5 S5 (8 * 58 - 290 - 58) 58 40 20 hA5 hS5
      (by norm_num) (by norm_num)
  · rw [hT5]
    exact byteSpec_mid 58 A5 v5 S5 (8 * 58 - 290 - 58) 58 41 12 hA5 hS5
      (by norm_num) (by norm_num)
  · rw [hT5]
    exact byteSpec_mid 58 A5 v5 S5 (8 * 58 - 290 - 58) 58 42 4 hA5 hS5
      (by norm_num) (by norm_num)
  · rw [hU5]
    exact byteSpec_bnd 58 B5 v5 v6 R5 (8 * 58 - 290 - 58 - 58) 43 4 4 54 15 15 58 hB5 hv5 hv6 hR5
      (by norm_num) (by norm_num) (by norm_num) (by norm_num) (by norm_num)
  · rw [hT6]
    exact byteSpec_mid 58 A6 v6 S6 (8 * 58 - 348 - 58) 58 44 46 hA6 hS6
      (by norm_num) (by norm_num)
  · rw [hT6]
    exact byteSpec_mid 58 A6 v6 S6 (8 * 58 - 348 - 58) 58 45 38 hA6 hS6
      (by norm_num) (by norm_num)
  · rw [hT6]
    exact byteSpec_mid 58 A6 v6 S6 (8 * 58 - 348 - 58) 58 46 30 hA6 hS6
      (by norm_num) (by norm_num)
  · rw [hT6]
    exact byteSpec_mid 58 A6 v6 S6 (8 * 58 - 348 - 58) 58 47 22 hA6 hS6
      (by norm_num) (by norm_num)
  · rw [hT6]
    exact byteSpec_mid 58 A6 v6 S6 (8 * 58 - 348 - 58) 58 48 14 hA6 hS6
      (by norm_num) (by norm_num)
  · rw [hT6]
    exact byteSpec_mid 58 A6 v6 S6 (8 * 58 - 348 - 58) 58 49 6 hA6 hS6
      (by norm_num) (by norm_num)
  · rw [hU6]
    exact byteSpec_bnd 58 B6 v6 v7 R6 (8 * 58 - 348 - 58 - 58) 50 6 2 56 63 3 58 hB6 hv6 hv7 hR6
      (by norm_num) (by norm_num) (by norm_num) (by norm_num) (by norm_num)
  · rw [hT7]
    exact byteSpec_mid 58 A7 v7 S7 (8 * 58 - 406 - 58) 58 51 48 hA7 hS7
      (by norm_num) (by norm_num)
  · rw [hT7]
    exact byteSpec_mid 58 A7 v7 S7 (8 * 58 - 406 - 58) 58 52 40 hA7 hS7
      (by norm_num) (by norm_num)
  · rw [hT7]
    exact byteSpec_mid 58 A7 v7 S7 (8 * 58 - 406 - 58) 58 53 32 hA7 hS7
      (by norm_num) (by norm_num)
  · rw [hT7]
    exact byteSpec_mid 58 A7 v7 S7 (8 * 58 - 406 - 58) 58 54 24 hA7 hS7
      (by norm_num) (by norm_num)
  · rw [hT7]
    exact byteSpec_mid 58 A7 v7 S7 (8 * 58 - 406 - 58) 58 55 16 hA7 hS7
      (by norm_num) (by norm_num)
  · rw [hT7]
    exact byteSpec_mid 58 A7 v7 S7 (8 * 58 - 406 - 58) 58 56 8 hA7 hS7
      (by norm_num) (by norm_num)
  · rw [hT7]
    exact byteSpec_mid0 58 A7 v7 S7 (8 * 58 - 406 - 58) 58 57 hA7 hS7
      (by norm_num) (by norm_num)

set_option maxRecDepth 16000 in
set_option maxHeartbeats 1000000 in
theorem c5_pack_eq_59 (v0 v1 v2 v3 v4 v5 v6 v7 : Nat) (hv0 : v0 < 2 ^ 59) (hv1 : v1 < 2 ^ 59) (hv2 : v2 < 2 ^ 59) (hv3 : v3 < 2 ^ 59) (hv4 : v4 < 2 ^ 59) (hv5 : v5 < 2 ^ 59) (hv6 : v6 < 2 ^ 59) (hv7 : v7 < 2 ^ 59) :
    (packSeq (BitPacker.new (List.replicate 59 0)) [(v0, 59), (v1, 59), (v2, 59), (v3, 59), (v4, 59), (v5, 59), (v6, 59), (v7, 59)]).bytes
      = pack_bits_59 v0 v1 v2 v3 v4 v5 v6 v7 := by
  have hvs : ∀ p ∈ ([(v0, 59), (v1, 59), (v2, 59), (v3, 59), (v4, 59), (v5, 59), (v6, 59), (v7, 59)] : List (Nat × Nat)), p.1 < 2 ^ p.2 := by
    intro p hp
    simp only [List.mem_cons, List.not_mem_nil, or_false] at hp
    rcases hp with rfl | rfl | rfl | rfl | rfl | rfl | rfl | rfl
    exacts [hv0, hv1, hv2, hv3, hv4, hv5, hv6, hv7]
  obtain ⟨-, -, -, ⟨hlen, hbytes⟩, -, -⟩ :=
    packSeq_inv 59 [(v0, 59), (v1, 59), (v2, 59), (v3, 59), (v4, 59), (v5, 59), (v6, 59), (v7, 59)] 0 0 _ hvs
      (by norm_num [List.map_cons, List.map_nil, List.sum_cons, List.sum_nil]) (packInv_init 59)
  have key : (packSeq (BitPacker.new (List.replicate 59 0)) [(v0, 59), (v1, 59), (v2, 59), (v3, 59), (v4, 59), (v5, 59), (v6, 59), (v7, 59)]).bytes
      = [ ByteSpec 59 (streamT 59 [(v0, 59), (v1, 59), (v2, 59), (v3, 59), (v4, 59), (v5, 59), (v6, 59), (v7, 59)] 0 0) 0,
          ByteSpec 59 (streamT 59 [(v0, 59), (v1, 59), (v2, 59), (v3, 59), (v4, 59), (v5, 59), (v6, 59), (v7, 59)] 0 0) 1,
          ByteSpec 59 (streamT 59 [(v0, 59), (v1, 59), (v2, 59), (v3, 59), (v4, 59), (v5, 59), (v6, 59), (v7, 59)] 0 0) 2,
          ByteSpec 59 (streamT 59 [(v0, 59), (v1, 59), (v2, 59), (v3, 59), (v4, 59), (v5, 59), (v6, 59), (v7, 59)] 0 0) 3,
          ByteSpec 59 (streamT 59 [(v0, 59), (v1, 59), (v2, 59), (v3, 59), (v4, 59), (v5, 59), (v6, 59), (v7, 59)] 0 0) 4,
          ByteSpec 59 (streamT 59 [(v0, 59), (v1, 59), (v2, 59), (v3, 59), (v4, 59), (v5, 59), (v6, 59), (v7, 59)] 0 0) 5,
          ByteSpec 59 (streamT 59 [(v0, 59), (v1, 59), (v2, 59), (v3, 59), (v4, 59), (v5, 59), (v6, 59), (v7, 59)] 0 0) 6,
          ByteSpec 59 (streamT 59 [(v0, 59), (v1, 59), (v2, 59), (v3, 59), (v4, 59), (v5, 59), (v6, 59), (v7, 59)] 0 0) 7,
          ByteSpec 59 (streamT 59 [(v0, 59), (v1, 59), (v2, 59), (v3, 59), (v4, 59), (v5, 59), (v6, 59), (v7, 59)] 0 0) 8,
          ByteSpec 59 (streamT 59 [(v0, 59), (v1, 59), (v2, 59), (v3, 59), (v4, 59), (v5, 59), (v6, 59), (v7, 59)] 0 0) 9,
          ByteSpec 59 (streamT 59 [(v0, 59), (v1, 59), (v2, 59), (v3, 59), (v4, 59), (v5, 59), (v6, 59), (v7, 59)] 0 0) 10,
          ByteSpec 59 (streamT 59 [(v0, 59), (v1, 59), (v2, 59), (v3, 59), (v4, 59), (v5, 59), (v6, 59), (v7, 59)] 0 0) 11,
          ByteSpec 59 (streamT 59 [(v0, 59), (v1, 59), (v2, 59), (v3, 59), (v4, 59), (v5, 59), (v6, 59), (v7, 59)] 0 0) 12,
          ByteSpec 59 (streamT 59 [(v0, 59), (v1, 59), (v2, 59), (v3, 59), (v4, 59), (v5, 59), (v6, 59), (v7, 59)] 0 0) 13,
          ByteSpec 59 (streamT 59 [(v0, 59), (v1, 59), (v2, 59), (v3, 59), (v4, 59), (v5, 59), (v6, 59), (v7, 59)] 0 0) 14,
          ByteSpec 59 (streamT 59 [(v0, 59), (v1, 59), (v2, 59), (v3, 59), (v4, 59), (v5, 59), (v6, 59), (v7, 59)] 0 0) 15,
          ByteSpec 59 (streamT 59 [(v0, 59), (v1, 59), (v2, 59), (v3, 59), (v4, 59), (v5, 59), (v6, 59), (v7, 59)] 0 0) 16,
          ByteSpec 59 (streamT 59 [(v0, 59), (v1, 59), (v2, 59), (v3, 59), (v4, 59), (v5, 59), (v6, 59), (v7, 59)] 0 0) 17,
          ByteSpec 59 (streamT 59 [(v0, 59), (v1, 59), (v2, 59), (v3, 59), (v4, 59), (v5, 59), (v6, 59), (v7, 59)] 0 0) 18,
          ByteSpec 59 (streamT 59 [(v0, 59), (v1, 59), (v2, 59), (v3, 59), (v4, 59), (v5, 59), (v6, 59), (v7, 59)] 0 0) 19,
          ByteSpec 59 (streamT 59 [(v0, 59), (v1, 59), (v2, 59), (v3, 59), (v4, 59), (v5, 59), (v6, 59), (v7, 59)] 0 0) 20,
          ByteSpec 59 (streamT 59 [(v0, 59), (v1, 59), (v2, 59), (v3, 59), (v4, 59), (v5, 59), (v6, 59), (v7, 59)] 0 0) 21,
          ByteSpec 59 (streamT 59 [(v0, 59), (v1, 59), (v2, 59), (v3, 59), (v4, 59), (v5, 59), (v6, 59), (v7, 59)] 0 0) 22,
          ByteSpec 59 (streamT 59 [(v0, 59), (v1, 59), (v2, 59), (v3, 59), (v4, 59), (v5, 59), (v6, 59), (v7, 59)] 0 0) 23,
          ByteSpec 59 (streamT 59 [(v0, 59), (v1, 59), (v2, 59), (v3, 59), (v4, 59), (v5, 59), (v6, 59), (v7, 59)] 0 0) 24,
          ByteSpec 59 (streamT 59 [(v0, 59), (v1, 59), (v2, 59), (v3, 59), (v4, 59), (v5, 59), (v6, 59), (v7, 59)] 0 0) 25,
          ByteSpec 59 (streamT 59 [(v0, 59), (v1, 59), (v2, 59), (v3, 59), (v4, 59), (v5, 59), (v6, 59), (v7, 59)] 0 0) 26,
          ByteSpec 59 (streamT 59 [(v0, 59), (v1, 59), (v2, 59), (v3, 59), (v4, 59), (v5, 59), (v6, 59), (v7, 59)] 0 0) 27,
          ByteSpec 59 (streamT 59 [(v0, 59), (v1, 59), (v2, 59), (v3, 59), (v4, 59), (v5, 59), (v6, 59), (v7, 59)] 0 0) 28,
          ByteSpec 59 (streamT 59 [(v0, 59), (v1, 59), (v2, 59), (v3, 59), (v4, 59), (v5, 59), (v6, 59), (v7, 59)] 0 0) 29,
          ByteSpec 59 (streamT 59 [(v0, 59), (v1, 59), (v2, 59), (v3, 59), (v4, 59), (v5, 59), (v6, 59), (v7, 59)] 0 0) 30,
          ByteSpec 59 (streamT 59 [(v0, 59), (v1, 59), (v2, 59), (v3, 59), (v4, 59), (v5, 59), (v6, 59), (v7, 59)] 0 0) 31,
          ByteSpec 59 (streamT 59 [(v0, 59), (v1, 59), (v2, 59), (v3, 59), (v4, 59), (v5, 59), (v6, 59), (v7, 59)] 0 0) 32,
          ByteSpec 59 (streamT 59 [(v0, 59), (v1, 59), (v2, 59), (v3, 59), (v4, 59), (v5, 59), (v6, 59), (v7, 59)] 0 0) 33,
          ByteSpec 59 (streamT 59 [(v0, 59), (v1, 59), (v2, 59), (v3, 59), (v4, 59), (v5, 59), (v6, 59), (v7, 59)] 0 0) 34,
          ByteSpec 59 (streamT 59 [(v0, 59), (v1, 59), (v2, 59), (v3, 59), (v4, 59), (v5, 59), (v6, 59), (v7, 59)] 0 0) 35,
          ByteSpec 59 (streamT 59 [(v0, 59), (v1, 59), (v2, 59), (v3, 59), (v4, 59), (v5, 59), (v6, 59), (v7, 59)] 0 0) 36,
          ByteSpec 59 (streamT 59 [(v0, 59), (v1, 59), (v2, 59), (v3, 59), (v4, 59), (v5, 59), (v6, 59), (v7, 59)] 0 0) 37,
          ByteSpec 59 (streamT 59 [(v0, 59), (v1, 59), (v2, 59), (v3, 59), (v4, 59), (v5, 59), (v6, 59), (v7, 59)] 0 0) 38,
          ByteSpec 59 (streamT 59 [(v0, 59), (v1, 59), (v2, 59), (v3, 59), (v4, 59), (v5, 59), (v6, 59), (v7, 59)] 0 0) 39,
          ByteSpec 59 (streamT 59 [(v0, 59), (v1, 59), (v2, 59), (v3, 59), (v4, 59), (v5, 59), (v6, 59), (v7, 59)] 0 0) 40,
          ByteSpec 59 (streamT 59 [(v0, 59), (v1, 59), (v2, 59), (v3, 59), (v4, 59), (v5, 59), (v6, 59), (v7, 59)] 0 0) 41,
          ByteSpec 59 (streamT 59 [(v0, 59), (v1, 59), (v2, 59), (v3, 59), (v4, 59), (v5, 59), (v6, 59), (v7, 59)] 0 0) 42,
          ByteSpec 59 (streamT 59 [(v0, 59), (v1, 59), (v2, 59), (v3, 59), (v4, 59), (v5, 59), (v6, 59), (v7, 59)] 0 0) 43,
          ByteSpec 59 (streamT 59 [(v0, 59), (v1, 59), (v2, 59), (v3, 59), (v4, 59), (v5, 59), (v6, 59), (v7, 59)] 0 0) 44,
          ByteSpec 59 (streamT 59 [(v0, 59), (v1, 59), (v2, 59), (v3, 59), (v4, 59), (v5, 59), (v6, 59), (v7, 59)] 0 0) 45,
          ByteSpec 59 (streamT 59 [(v0, 59), (v1, 59), (v2, 59), (v3, 59), (v4, 59), (v5, 59), (v6, 59), (v7, 59)] 0 0) 46,
          ByteSpec 59 (streamT 59 [(v0, 59), (v1, 59), (v2, 59), (v3, 59), (v4, 59), (v5, 59), (v6, 59), (v7, 59)] 0 0) 47,
          ByteSpec 59 (streamT 59 [(v0, 59), (v1, 59), (v2, 59), (v3, 59), (v4, 59), (v5, 59), (v6, 59), (v7, 59)] 0 0) 48,
          ByteSpec 59 (streamT 59 [(v0, 59), (v1, 59), (v2, 59), (v3, 59), (v4, 59), (v5, 59), (v6, 59), (v7, 59)] 0 0) 49,
          ByteSpec 59 (streamT 59 [(v0, 59), (v1, 59), (v2, 59), (v3, 59), (v4, 59), (v5, 59), (v6, 59), (v7, 59)] 0 0) 50,
          ByteSpec 59 (streamT 59 [(v0, 59), (v1, 59), (v2, 59), (v3, 59), (v4, 59), (v5, 59), (v6, 59), (v7, 59)] 0 0) 51,
          ByteSpec 59 (streamT 59 [(v0, 59), (v1, 59), (v2, 59), (v3, 59), (v4, 59), (v5, 59), (v6, 59), (v7, 59)] 0 0) 52,
          ByteSpec 59 (streamT 59 [(v0, 59), (v1, 59), (v2, 59), (v3, 59), (v4, 59), (v5, 59), (v6, 59), (v7, 59)] 0 0) 53,
          ByteSpec 59 (streamT 59 [(v0, 59), (v1, 59), (v2, 59), (v3, 59), (v4, 59), (v5, 59), (v6, 59), (v7, 59)] 0 0) 54,
          ByteSpec 59 (streamT 59 [(v0, 59), (v1, 59), (v2, 59), (v3, 59), (v4, 59), (v5, 59), (v6, 59), (v7, 59)] 0 0) 55,
          ByteSpec 59 (streamT 59 [(v0, 59), (v1, 59), (v2, 59), (v3, 59), (v4, 59), (v5, 59), (v6, 59), (v7, 59)] 0 0) 56,
          ByteSpec 59 (streamT 59 [(v0, 59), (v1, 59), (v2, 59), (v3, 59), (v4, 59), (v5, 59), (v6, 59), (v7, 59)] 0 0) 57,
          ByteSpec 59 (streamT 59 [(v0, 59), (v1, 59), (v2, 59), (v3, 59), (v4, 59), (v5, 59), (v6, 59), (v7, 59)] 0 0) 58 ] :=
    (list_eq_map_range_of_getD _ _ 59 hlen hbytes).trans (by rfl)
  have key2 : pack_bits_59 v0 v1 v2 v3 v4 v5 v6 v7
      = [ u8 (((v0 >>> 51) &&& 0xff)),
          u8 (((v0 >>> 43) &&& 0xff)),
          u8 (((v0 >>> 35) &&& 0xff)),
          u8 (((v0 >>> 27) &&& 0xff)),
          u8 (((v0 >>> 19) &&& 0xff)),
          u8 (((v0 >>> 11) &&& 0xff)),
          u8 (((v0 >>> 3) &&& 0xff)),
          u8 (((((v0) &&& 0x7) <<< 5) ||| ((v1 >>> 54) &&& 0x1f))),
          u8 (((v1 >>> 46) &&& 0xff)),
          u8 (((v1 >>> 38) &&& 0xff)),
          u8 (((v1 >>> 30) &&& 0xff)),
          u8 (((v1 >>> 22) &&& 0xff)),
          u8 (((v1 >>> 14) &&& 0xff)),
          u8 (((v1 >>> 6) &&& 0xff)),
          u8 (((((v1) &&& 0x3f) <<< 2) ||| ((v2 >>> 57) &&& 0x3))),
          u8 (((v2 >>> 49) &&& 0xff)),
          u8 (((v2 >>> 41) &&& 0xff)),
          u8 (((v2 >>> 33) &&& 0xff)),
          u8 (((v2 >>> 25) &&& 0xff)),
          u8 (((v2 >>> 17) &&& 0xff)),
          u8 (((v2 >>> 9) &&& 0xff)),
          u8 (((v2 >>> 1) &&& 0xff)),
          u8 (((((v2) &&& 0x1) <<< 7) ||| ((v3 >>> 52) &&& 0x7f))),
          u8 (((v3 >>> 44) &&& 0xff)),
          u8 (((v3 >>> 36) &&& 0xff)),
          u8 (((v3 >>> 28) &&& 0xff)),
          u8 (((v3 >>> 20) &&& 0xff)),
          u8 (((v3 >>> 12) &&& 0xff)),
          u8 (((v3 >>> 4) &&& 0xff)),
          u8 (((((v3) &&& 0xf) <<< 4) ||| ((v4 >>> 55) &&& 0xf))),
          u8 (((v4 >>> 47) &&& 0xff)),
          u8 (((v4 >>> 39) &&& 0xff)),
          u8 (((v4 >>> 31) &&& 0xff)),
          u8 (((v4 >>> 23) &&& 0xff)),
          u8 (((v4 >>> 15) &&& 0xff)),
          u8 (((v4 >>> 7) &&& 0xff)),
          u8 (((((v4) &&& 0x7f) <<< 1) ||| ((v5 >>> 58) &&& 0x1))),
          u8 (((v5 >>> 50) &&& 0xff)),
          u8 (((v5 >>> 42) &&& 0xff)),
          u8 (((v5 >>> 34) &&& 0xff)),
          u8 (((v5 >>> 26) &&& 0xff)),
          u8 (((v5 >>> 18) &&& 0xff)),
          u8 (((v5 >>> 10) &&& 0xff)),
          u8 (((v5 >>> 2) &&& 0xff)),
          u8 (((((v5) &&& 0x3) <<< 6) ||| ((v6 >>> 53) &&& 0x3f))),
          u8 (((v6 >>> 45) &&& 0xff)),
          u8 (((v6 >>> 37) &&& 0xff)),
          u8 (((v6 >>> 29) &&& 0xff)),
          u8 (((v6 >>> 21) &&& 0xff)),
          u8 (((v6 >>> 13) &&& 0xff)),
          u8 (((v6 >>> 5) &&& 0xff)),
          u8 (((((v6) &&& 0x1f) <<< 3) ||| ((v7 >>> 56) &&& 0x7))),
          u8 (((v7 >>> 48) &&& 0xff)),
          u8 (((v7 >>> 40) &&& 0xff)),
          u8 (((v7 >>> 32) &&& 0xff)),
          u8 (((v7 >>> 24) &&& 0xff)),
          u8 (((v7 >>> 16) &&& 0xff)),
          u8 (((v7 >>> 8) &&& 0xff)),
          u8 (((v7) &&& 0xff)) ] := rfl
  obtain ⟨A0, S0, hT0, hA0, hS0⟩ :=
    streamT_decomp 59 [(v0, 59), (v1, 59), (v2, 59), (v3, 59), (v4, 59), (v5, 59), (v6, 59), (v7, 59)] [] [(v1, 59), (v2, 59), (v3, 59), (v4, 59), (v5, 59), (v6, 59), (v7, 59)] v0 59 0 rfl rfl hvs
      (by norm_num [List.map_cons, List.map_nil, List.sum_cons, List.sum_nil])
  obtain ⟨A1, S1, hT1, hA1, hS1⟩ :=
    streamT_decomp 59 [(v0, 59), (v1, 59), (v2, 59), (v3, 59), (v4, 59), (v5, 59), (v6, 59), (v7, 59)] [(v0, 59)] [(v2, 59), (v3, 59), (v4, 59), (v5, 59), (v6, 59), (v7, 59)] v1 59 59 rfl rfl hvs
      (by norm_num [List.map_cons, List.map_nil, List.sum_cons, List.sum_nil])
  obtain ⟨A2, S2, hT2, hA2, hS2⟩ :=
    streamT_decomp 59 [(v0, 59), (v1, 59), (v2, 59), (v3, 59), (v4, 59), (v5, 59), (v6, 59), (v7, 59)] [(v0, 59), (v1, 59)] [(v3, 59), (v4, 59), (v5, 59), (v6, 59), (v7, 59)] v2 59 118 rfl rfl hvs
      (by norm_num [List.map_cons, List.map_nil, List.sum_cons, List.sum_nil])
  obtain ⟨A3, S3, hT3, hA3, hS3⟩ :=
    streamT_decomp 59 [(v0, 59), (v1, 59), (v2, 59), (v3, 59), (v4, 59), (v5, 59), (v6, 59), (v7, 59)] [(v0, 59), (v1, 59), (v2, 59)] [(v4, 59), (v5, 59), (v6, 59), (v7, 59)] v3 59 177 rfl rfl hvs
      (by norm_num [List.map_cons, List.map_nil, List.sum_cons, List.sum_nil])
  obtain ⟨A4, S4, hT4, hA4, hS4⟩ :=
    streamT_decomp 59 [(v0, 59), (v1, 59), (v2, 59), (v3, 59), (v4, 59), (v5, 59), (v6, 59), (v7, 59)] [(v0, 59), (v1, 59), (v2, 59), (v3, 59)] [(v5, 59), (v6, 59), (v7, 59)] v4 59 236 rfl rfl hvs
      (by norm_num [List.map_cons, List.map_nil, List.sum_cons, List.sum_nil])
  obtain ⟨A5, S5, hT5, hA5, hS5⟩ :=
    streamT_decomp 59 [(v0, 59), (v1, 59), (v2, 59), (v3, 59), (v4, 59), (v5, 59), (v6, 59), (v7, 59)] [(v0, 59), (v1, 59), (v2, 59), (v3, 59), (v4, 59)] [(v6, 59), (v7, 59)] v5 59 295 rfl rfl hvs
      (by norm_num [List.map_cons, List.map_nil, List.sum_cons, List.sum_nil])
  obtain ⟨A6, S6, hT6, hA6, hS6⟩ :=
    streamT_decomp 59 [(v0, 59), (v1, 59), (v2, 59), (v3, 59), (v4, 59), (v5, 59), (v6, 59), (v7, 59)] [(v0, 59), (v1, 59), (v2, 59), (v3, 59), (v4, 59), (v5, 59)] [(v7, 59)] v6 59 354 rfl rfl hvs
      (by norm_num [List.map_cons, List.map_nil, List.sum_cons, List.sum_nil])
  obtain ⟨A7, S7, hT7, hA7, hS7⟩ :=
    streamT_decomp 59 [(v0, 59), (v1, 59), (v2, 59), (v3, 59), (v4, 59), (v5, 59), (v6, 59), (v7, 59)] [(v0, 59), (v1, 59), (v2, 59), (v3, 59), (v4, 59), (v5, 59), (v6, 59)] [] v7 59 413 rfl rfl hvs
      (by norm_num [List.map_cons, List.map_nil, List.sum_cons, List.sum_nil])
  obtain ⟨B0, R0, hU0, hB0, hR0⟩ :=
    streamT_decomp2 59 [(v0, 59), (v1, 59), (v2, 59), (v3, 59), (v4, 59), (v5, 59), (v6, 59), (v7, 59)] [] [(v2, 59), (v3, 59), (v4, 59), (v5, 59), (v6, 59), (v7, 59)] v0 v1 59 59 0 rfl rfl hvs
      (by norm_num [List.map_cons, List.map_nil, List.sum_cons, List.sum_nil])
  obtain ⟨B1, R1, hU1, hB1, hR1⟩ :=
    streamT_decomp2 59 [(v0, 59), (v1, 59), (v2, 59), (v3, 59), (v4, 59), (v5, 59), (v6, 59), (v7, 59)] [(v0, 59)] [(v3, 59), (v4, 59), (v5, 59), (v6, 59), (v7, 59)] v1 v2 59 59 59 rfl rfl hvs
      (by norm_num [List.map_cons, List.map_nil, List.sum_cons, List.sum_nil])
  obtain ⟨B2, R2, hU2, hB2, hR2⟩ :=
    streamT_decomp2 59 [(v0, 59), (v1, 59), (v2, 59), (v3, 59), (v4, 59), (v5, 59), (v6, 59), (v7, 59)] [(v0, 59), (v1, 59)] [(v4, 59), (v5, 59), (v6, 59), (v7, 59)] v2 v3 59 59 118 rfl rfl hvs
      (by norm_num [List.map_cons, List.map_nil, List.sum_cons, List.sum_nil])
  obtain ⟨B3, R3, hU3, hB3, hR3⟩ :=
    streamT_decomp2 59 [(v0, 59), (v1, 59), (v2, 59), (v3, 59), (v4, 59), (v5, 59), (v6, 59), (v7, 59)] [(v0, 59), (v1, 59), (v2, 59)] [(v5, 59), (v6, 59), (v7, 59)] v3 v4 59 59 177 rfl rfl hvs
      (by norm_num [List.map_cons, List.map_nil, List.sum_cons, List.sum_nil])
  obtain ⟨B4, R4, hU4, hB4, hR4⟩ :=
    streamT_decomp2 59 [(v0, 59), (v1, 59), (v2, 59), (v3, 59), (v4, 59), (v5, 59), (v6, 59), (v7, 59)] [(v0, 59), (v1, 59), (v2, 59), (v3, 59)] [(v6, 59), (v7, 59)] v4 v5 59 59 236 rfl rfl hvs
      (by norm_num [List.map_cons, List.map_nil, List.sum_cons, List.sum_nil])
  obtain ⟨B5, R5, hU5, hB5, hR5⟩ :=
    streamT_decomp2 59 [(v0, 59), (v1, 59), (v2, 59), (v3, 59), (v4, 59), (v5, 59), (v6, 59), (v7, 59)] [(v0, 59), (v1, 59), (v2, 59), (v3, 59), (v4, 59)] [(v7, 59)] v5 v6 59 59 295 rfl rfl hvs
      (by norm_num [List.map_cons, List.map_nil, List.sum_cons, List.sum_nil])
  obtain ⟨B6, R6, hU6, hB6, hR6⟩ :=
    streamT_decomp2 59 [(v0, 59), (v1, 59), (v2, 59), (v3, 59), (v4, 59), (v5, 59), (v6, 59), (v7, 59)] [(v0, 59), (v1, 59), (v2, 59), (v3, 59), (v4, 59), (v5, 59)] [] v6 v7 59 59 354 rfl rfl hvs
      (by norm_num [List.map_cons, List.map_nil, List.sum_cons, List.sum_nil])
  rw [key, key2]
  simp only [List.cons.injEq]
  refine ⟨?_, ?_, ?_, ?_, ?_, ?_, ?_, ?_, ?_, ?_, ?_, ?_, ?_, ?_, ?_, ?_, ?_, ?_, ?_, ?_, ?_, ?_, ?_, ?_, ?_, ?_, ?_, ?_, ?_, ?_, ?_, ?_, ?_, ?_, ?_, ?_, ?_, ?_, ?_, ?_, ?_, ?_, ?_, ?_, ?_, ?_, ?_, ?_, ?_, ?_, ?_, ?_, ?_, ?_, ?_, ?_, ?_, ?_, ?_, trivial⟩
  · rw [hT0]
    exact byteSpec_mid 59 A0 v0 S0 (8 * 59 - 0 - 59) 59 0 51 hA0 hS0
      (by norm_num) (by norm_num)
  · rw [hT0]
    exact byteSpec_mid 59 A0 v0 S0 (8 * 59 - 0 - 59) 59 1 43 hA0 hS0
      (by norm_num) (by norm_num)
  · rw [hT0]
    exact byteSpec_mid 59 A0 v0 S0 (8 * 59 - 0 - 59) 59 2 35 hA0 hS0
      (by norm_num) (by norm_num)
  · rw [hT0]
    exact byteSpec_mid 59 A0 v0 S0 (8 * 59 - 0 - 59) 59 3 27 hA0 hS0
      (by norm_num) (by norm_num)
  · rw [hT0]
    exact byteSpec_mid 59 A0 v0 S0 (8 * 59 - 0 - 59) 59 4 19 hA0 hS0
      (by norm_num) (by norm_num)
  · rw [hT0]
    exact byteSpec_mid 59 A0 v0 S0 (8 * 59 - 0 - 59) 59 5 11 hA0 hS0
      (by norm_num) (by norm_num)
  · rw [hT0]
    exact byteSpec_mid 59 A0 v0 S0 (8 * 59 - 0 - 59) 59 6 3 hA0 hS0
      (by norm_num) (by norm_num)
  · rw [hU0]
    exact byteSpec_bnd 59 B0 v0 v1 R0 (8 * 59 - 0 - 59 - 59) 7 3 5 54 7 31 59 hB0 hv0 hv1 hR0
      (by norm_num) (by norm_num) (by norm_num) (by norm_num) (by norm_num)
  · rw [hT1]
    exact byteSpec_mid 59 A1 v1 S1 (8 * 59 - 59 - 59) 59 8 46 hA1 hS1
      (by norm_num) (by norm_num)
  · rw [hT1]
    exact byteSpec_mid 59 A1 v1 S1 (8 * 59 - 59 - 59) 59 9 38 hA1 hS1
      (by norm_num) (by norm_num)
  · rw [hT1]
    exact byteSpec_mid 59 A1 v1 S1 (8 * 59 - 59 - 59) 59 10 30 hA1 hS1
      (by norm_num) (by norm_num)
  · rw [hT1]
    exact byteSpec_mid 59 A1 v1 S1 (8 * 59 - 59 - 59) 59 11 22 hA1 hS1
      (by norm_num) (by norm_num)
  · rw [hT1]
    exact byteSpec_mid 59 A1 v1 S1 (8 * 59 - 59 - 59) 59 12 14 hA1 hS1
      (by norm_num) (by norm_num)
  · rw [hT1]
    exact byteSpec_mid 59 A1 v1 S1 (8 * 59 - 59 - 59) 59 13 6 hA1 hS1
      (by norm_num) (by norm_num)
  · rw [hU1]
    exact byteSpec_bnd 59 B1 v1 v2 R1 (8 * 59 - 59 - 59 - 59) 14 6 2 57 63 3 59 hB1 hv1 hv2 hR1
      (by norm_num) (by norm_num) (by norm_num) (by norm_num) (by norm_num)
  · rw [hT2]
    exact byteSpec_mid 59 A2 v2 S2 (8 * 59 - 118 - 59) 59 15 49 hA2 hS2
      (by norm_num) (by norm_num)
  · rw [hT2]
    exact byteSpec_mid 59 A2 v2 S2 (8 * 59 - 118 - 59) 59 16 41 hA2 hS2
      (by norm_num) (by norm_num)
  · rw [hT2]
    exact byteSpec_mid 59 A2 v2 S2 (8 * 59 - 118 - 59) 59 17 33 hA2 hS2
      (by norm_num) (by norm_num)
  · rw [hT2]
    exact byteSpec_mid 59 A2 v2 S2 (8 * 59 - 118 - 59) 59 18 25 hA2 hS2
      (by norm_num) (by norm_num)
  · rw [hT2]
    exact byteSpec_mid 59 A2 v2 S2 (8 * 59 - 118 - 59) 59 19 17 hA2 hS2
      (by norm_num) (by norm_num)
  · rw [hT2]
    exact byteSpec_mid 59 A2 v2 S2 (8 * 59 - 118 - 59) 59 20 9 hA2 hS2
      (by norm_num) (by norm_num)
  · rw [hT2]
    exact byteSpec_mid 59 A2 v2 S2 (8 * 59 - 118 - 59) 59 21 1 hA2 hS2
      (by norm_num) (by norm_num)
  · rw [hU2]
    exact byteSpec_bnd 59 B2 v2 v3 R2 (8 * 59 - 118 - 59 - 59) 22 1 7 52 1 127 59 hB2 hv2 hv3 hR2
      (by norm_num) (by norm_num) (by norm_num) (by norm_num) (by norm_num)
  · rw [hT3]
    exact byteSpec_mid 59 A3 v3 S3 (8 * 59 - 177 - 59) 59 23 44 hA3 hS3
      (by norm_num) (by norm_num)
  · rw [hT3]
    exact byteSpec_mid 59 A3 v3 S3 (8 * 59 - 177 - 59) 59 24 36 hA3 hS3
      (by norm_num) (by norm_num)
  · rw [hT3]
    exact byteSpec_mid 59 A3 v3 S3 (8 * 59 - 177 - 59) 59 25 28 hA3 hS3
      (by norm_num) (by norm_num)
  · rw [hT3]
    exact byteSpec_mid 59 A3 v3 S3 (8 * 59 - 177 - 59) 59 26 20 hA3 hS3
      (by norm_num) (by norm_num)
  · rw [hT3]
    exact byteSpec_mid 59 A3 v3 S3 (8 * 59 - 177 - 59) 59 27 12 hA3 hS3
      (by norm_num) (by norm_num)
  · rw [hT3]
    exact byteSpec_mid 59 A3 v3 S3 (8 * 59 - 177 - 59) 59 28 4 hA3 hS3
      (by norm_num) (by norm_num)
  · rw [hU3]
    exact byteSpec_bnd 59 B3 v3 v4 R3 (8 * 59 - 177 - 59 - 59) 29 4 4 55 15 15 59 hB3 hv3 hv4 hR3
      (by norm_num) (by norm_num) (by norm_num) (by norm_num) (by norm_num)
  · rw [hT4]
    exact byteSpec_mid 59 A4 v4 S4 (8 * 59 - 236 - 59) 59 30 47 hA4 hS4
      (by norm_num) (by norm_num)
  · rw [hT4]
    exact byteSpec_mid 59 A4 v4 S4 (8 * 59 - 236 - 59) 59 31 39 hA4 hS4
      (by norm_num) (by norm_num)
  · rw [hT4]
    exact byteSpec_mid 59 A4 v4 S4 (8 * 59 - 236 - 59) 59 32 31 hA4 hS4
      (by norm_num) (by norm_num)
  · rw [hT4]
    exact byteSpec_mid 59 A4 v4 S4 (8 * 59 - 236 - 59) 59 33 23 hA4 hS4
      (by norm_num) (by norm_num)
  · rw [hT4]
    exact byteSpec_mid 59 A4 v4 S4 (8 * 59 - 236 - 59) 59 34 15 hA4 hS4
      (by norm_num) (by norm_num)
  · rw [hT4]
    exact byteSpec_mid 59 A4 v4 S4 (8 * 59 - 236 - 59) 59 35 7 hA4 hS4
      (by norm_num) (by norm_num)
  · rw [hU4]
    exact byteSpec_bnd 59 B4 v4 v5 R4 (8 * 59 - 236 - 59 - 59) 36 7 1 58 127 1 59 hB4 hv4 hv5 hR4
      (by norm_num) (by norm_num) (by norm_num) (by norm_num) (by norm_num)
  · rw [hT5]
    exact byteSpec_mid 59 A5 v5 S5 (8 * 59 - 295 - 59) 59 37 50 hA5 hS5
      (by norm_num) (by norm_num)
  · rw [hT5]
    exact byteSpec_mid 59 A5 v5 S5 (8 * 59 - 295 - 59) 59 38 42 hA5 hS5
      (by norm_num) (by norm_num)
  · rw [hT5]
    exact byteSpec_mid 59 A5 v5 S5 (8 * 59 - 295 - 59) 59 39 34 hA5 hS5
      (by norm_num) (by norm_num)
  · rw [hT5]
    exact byteSpec_mid 59 A5 v5 S5 (8 * 59 - 295 - 59) 59 40 26 hA5 hS5
      (by norm_num) (by norm_num)
  · rw [hT5]
    exact byteSpec_mid 59 A5 v5 S5 (8 * 59 - 295 - 59) 59 41 18 hA5 hS5
      (by norm_num) (by norm_num)
  · rw [hT5]
    exact byteSpec_mid 59 A5 v5 S5 (8 * 59 - 295 - 59) 59 42 10 hA5 hS5
      (by norm_num) (by norm_num)
  · rw [hT5]
    exact byteSpec_mid 59 A5 v5 S5 (8 * 59 - 295 - 59) 59 43 2 hA5 hS5
      (by norm_num) (by norm_num)
  · rw [hU5]
    exact byteSpec_bnd 59 B5 v5 v6 R5 (8 * 59 - 295 - 59 - 59) 44 2 6 53 3 63 59 hB5 hv5 hv6 hR5
      (by norm_num) (by norm_num) (by norm_num) (by norm_num) (by norm_num)
  · rw [hT6]
    exact byteSpec_mid 59 A6 v6 S6 (8 * 59 - 354 - 59) 59 45 45 hA6 hS6
      (by norm_num) (by norm_num)
  · rw [hT6]
    exact byteSpec_mid 59 A6 v6 S6 (8 * 59 - 354 - 59) 59 46 37 hA6 hS6
      (by norm_num) (by norm_num)
  · rw [hT6]
    exact byteSpec_mid 59 A6 v6 S6 (8 * 59 - 354 - 59) 59 47 29 hA6 hS6
      (by norm_num) (by norm_num)
  · rw [hT6]
    exact byteSpec_mid 59 A6 v6 S6 (8 * 59 - 354 - 59) 59 48 21 hA6 hS6
      (by norm_num) (by norm_num)
  · rw [hT6]
    exact byteSpec_mid 59 A6 v6 S6 (8 * 59 - 354 - 59) 59 49 13 hA6 hS6
      (by norm_num) (by norm_num)
  · rw [hT6]
    exact byteSpec_mid 59 A6 v6 S6 (8 * 59 - 354 - 59) 59 50 5 hA6 hS6
      (by norm_num) (by norm_num)
  · rw [hU6]
    exact byteSpec_bnd 59 B6 v6 v7 R6 (8 * 59 - 354 - 59 - 59) 51 5 3 56 31 7 59 hB6 hv6 hv7 hR6
      (by norm_num) (by norm_num) (by norm_num) (by norm_num) (by norm_num)
  · rw [hT7]
    exact byteSpec_mid 59 A7 v7 S7 (8 * 59 - 413 - 59) 59 52 48 hA7 hS7
      (by norm_num) (by norm_num)
  · rw [hT7]
    exact byteSpec_mid 59 A7 v7 S7 (8 * 59 - 413 - 59) 59 53 40 hA7 hS7
      (by norm_num) (by norm_num)
  · rw [hT7]
    exact byteSpec_mid 59 A7 v7 S7 (8 * 59 - 413 - 59) 59 54 32 hA7 hS7
      (by norm_num) (by norm_num)
  · rw [hT7]
    exact byteSpec_mid 59 A7 v7 S7 (8 * 59 - 413 - 59) 59 55 24 hA7 hS7
      (by norm_num) (by norm_num)
  · rw [hT7]
    exact byteSpec_mid 59 A7 v7 S7 (8 * 59 - 413 - 59) 59 56 16 hA7 hS7
      (by norm_num) (by norm_num)
  · rw [hT7]
    exact byteSpec_mid 59 A7 v7 S7 (8 * 59 - 413 - 59) 59 57 8 hA7 hS7
      (by norm_num) (by norm_num)
  · rw [hT7]
    exact byteSpec_mid0 59 A7 v7 S7 (8 * 59 - 413 - 59) 59 58 hA7 hS7
      (by norm_num) (by norm_num)

set_option maxRecDepth 16000 in
set_option maxHeartbeats 1000000 in
theorem c5_pack_eq_60 (v0 v1 v2 v3 v4 v5 v6 v7 : Nat) (hv0 : v0 < 2 ^ 60) (hv1 : v1 < 2 ^ 60) (hv2 : v2 < 2 ^ 60) (hv3 : v3 < 2 ^ 60) (hv4 : v4 < 2 ^ 60) (hv5 : v5 < 2 ^ 60) (hv6 : v6 < 2 ^ 60) (hv7 : v7 < 2 ^ 60) :
    (packSeq (BitPacker.new (List.replicate 60 0)) [(v0, 60), (v1, 60), (v2, 60), (v3, 60), (v4, 60), (v5, 60), (v6, 60), (v7, 60)]).bytes
      = pack_bits_60 v0 v1 v2 v3 v4 v5 v6 v7 := by
  have hvs : ∀ p ∈ ([(v0, 60), (v1, 60), (v2, 60), (v3, 60), (v4, 60), (v5, 60), (v6, 60), (v7, 60)] : List (Nat × Nat)), p.1 < 2 ^ p.2 := by
    intro p hp
    simp only [List.mem_cons, List.not_mem_nil, or_false] at hp
    rcases hp with rfl | rfl | rfl | rfl | rfl | rfl | rfl | rfl
    exacts [hv0, hv1, hv2, hv3, hv4, hv5, hv6, hv7]
  obtain ⟨-, -, -, ⟨hlen, hbytes⟩, -, -⟩ :=
    packSeq_inv 60 [(v0, 60), (v1, 60), (v2, 60), (v3, 60), (v4, 60), (v5, 60), (v6, 60), (v7, 60)] 0 0 _ hvs
      (by norm_num [List.map_cons, List.map_nil, List.sum_cons, List.sum_nil]) (packInv_init 60)
  have key : (packSeq (BitPacker.new (List.replicate 60 0)) [(v0, 60), (v1, 60), (v2, 60), (v3, 60), (v4, 60), (v5, 60), (v6, 60), (v7, 60)]).bytes
      = [ ByteSpec 60 (streamT 60 [(v0, 60), (v1, 60), (v2, 60), (v3, 60), (v4, 60), (v5, 60), (v6, 60), (v7, 60)] 0 0) 0,
          ByteSpec 60 (streamT 60 [(v0, 60), (v1, 60), (v2, 60), (v3, 60), (v4, 60), (v5, 60), (v6, 60), (v7, 60)] 0 0) 1,
          ByteSpec 60 (streamT 60 [(v0, 60), (v1, 60), (v2, 60), (v3, 60), (v4, 60), (v5, 60), (v6, 60), (v7, 60)] 0 0) 2,
          ByteSpec 60 (streamT 60 [(v0, 60), (v1, 60), (v2, 60), (v3, 60), (v4, 60), (v5, 60), (v6, 60), (v7, 60)] 0 0) 3,
          ByteSpec 60 (streamT 60 [(v0, 60), (v1, 60), (v2, 60), (v3, 60), (v4, 60), (v5, 60), (v6, 60), (v7, 60)] 0 0) 4,
          ByteSpec 60 (streamT 60 [(v0, 60), (v1, 60), (v2, 60), (v3, 60), (v4, 60), (v5, 60), (v6, 60), (v7, 60)] 0 0) 5,
          ByteSpec 60 (streamT 60 [(v0, 60), (v1, 60), (v2, 60), (v3, 60), (v4, 60), (v5, 60), (v6, 60), (v7, 60)] 0 0) 6,
          ByteSpec 60 (streamT 60 [(v0, 60), (v1, 60), (v2, 60), (v3, 60), (v4, 60), (v5, 60), (v6, 60), (v7, 60)] 0 0) 7,
          ByteSpec 60 (streamT 60 [(v0, 60), (v1, 60), (v2, 60), (v3, 60), (v4, 60), (v5, 60), (v6, 60), (v7, 60)] 0 0) 8,
          ByteSpec 60 (streamT 60 [(v0, 60), (v1, 60), (v2, 60), (v3, 60), (v4, 60), (v5, 60), (v6, 60), (v7, 60)] 0 0) 9,
          ByteSpec 60 (streamT 60 [(v0, 60), (v1, 60), (v2, 60), (v3, 60), (v4, 60), (v5, 60), (v6, 60), (v7, 60)] 0 0) 10,
          ByteSpec 60 (streamT 60 [(v0, 60), (v1, 60), (v2, 60), (v3, 60), (v4, 60), (v5, 60), (v6, 60), (v7, 60)] 0 0) 11,
          ByteSpec 60 (streamT 60 [(v0, 60), (v1, 60), (v2, 60), (v3, 60), (v4, 60), (v5, 60), (v6, 60), (v7, 60)] 0 0) 12,
          ByteSpec 60 (streamT 60 [(v0, 60), (v1, 60), (v2, 60), (v3, 60), (v4, 60), (v5, 60), (v6, 60), (v7, 60)] 0 0) 13,
          ByteSpec 60 (streamT 60 [(v0, 60), (v1, 60), (v2, 60), (v3, 60), (v4, 60), (v5, 60), (v6, 60), (v7, 60)] 0 0) 14,
          ByteSpec 60 (streamT 60 [(v0, 60), (v1, 60), (v2, 60), (v3, 60), (v4, 60), (v5, 60), (v6, 60), (v7, 60)] 0 0) 15,
          ByteSpec 60 (streamT 60 [(v0, 60), (v1, 60), (v2, 60), (v3, 60), (v4, 60), (v5, 60), (v6, 60), (v7, 60)] 0 0) 16,
          ByteSpec 60 (streamT 60 [(v0, 60), (v1, 60), (v2, 60), (v3, 60), (v4, 60), (v5, 60), (v6, 60), (v7, 60)] 0 0) 17,
          ByteSpec 60 (streamT 60 [(v0, 60), (v1, 60), (v2, 60), (v3, 60), (v4, 60), (v5, 60), (v6, 60), (v7, 60)] 0 0) 18,
          ByteSpec 60 (streamT 60 [(v0, 60), (v1, 60), (v2, 60), (v3, 60), (v4, 60), (v5, 60), (v6, 60), (v7, 60)] 0 0) 19,
          ByteSpec 60 (streamT 60 [(v0, 60), (v1, 60), (v2, 60), (v3, 60), (v4, 60), (v5, 60), (v6, 60), (v7, 60)] 0 0) 20,
          ByteSpec 60 (streamT 60 [(v0, 60), (v1, 60), (v2, 60), (v3, 60), (v4, 60), (v5, 60), (v6, 60), (v7, 60)] 0 0) 21,
          ByteSpec 60 (streamT 60 [(v0, 60), (v1, 60), (v2, 60), (v3, 60), (v4, 60), (v5, 60), (v6, 60), (v7, 60)] 0 0) 22,
          ByteSpec 60 (streamT 60 [(v0, 60), (v1, 60), (v2, 60), (v3, 60), (v4, 60), (v5, 60), (v6, 60), (v7, 60)] 0 0) 23,
          ByteSpec 60 (streamT 60 [(v0, 60), (v1, 60), (v2, 60), (v3, 60), (v4, 60), (v5, 60), (v6, 60), (v7, 60)] 0 0) 24,
          ByteSpec 60 (streamT 60 [(v0, 60), (v1, 60), (v2, 60), (v3, 60), (v4, 60), (v5, 60), (v6, 60), (v7, 60)] 0 0) 25,
          ByteSpec 60 (streamT 60 [(v0, 60), (v1, 60), (v2, 60), (v3, 60), (v4, 60), (v5, 60), (v6, 60), (v7, 60)] 0 0) 26,
          ByteSpec 60 (streamT 60 [(v0, 60), (v1, 60), (v2, 60), (v3, 60), (v4, 60), (v5, 60), (v6, 60), (v7, 60)] 0 0) 27,
          ByteSpec 60 (streamT 60 [(v0, 60), (v1, 60), (v2, 60), (v3, 60), (v4, 60), (v5, 60), (v6, 60), (v7, 60)] 0 0) 28,
          ByteSpec 60 (streamT 60 [(v0, 60), (v1, 60), (v2, 60), (v3, 60), (v4, 60), (v5, 60), (v6, 60), (v7, 60)] 0 0) 29,
          ByteSpec 60 (streamT 60 [(v0, 60), (v1, 60), (v2, 60), (v3, 60), (v4, 60), (v5, 60), (v6, 60), (v7, 60)] 0 0) 30,
          ByteSpec 60 (streamT 60 [(v0, 60), (v1, 60), (v2, 60), (v3, 60), (v4, 60), (v5, 60), (v6, 60), (v7, 60)] 0 0) 31,
          ByteSpec 60 (streamT 60 [(v0, 60), (v1, 60), (v2, 60), (v3, 60), (v4, 60), (v5, 60), (v6, 60), (v7, 60)] 0 0) 32,
          ByteSpec 60 (streamT 60 [(v0, 60), (v1, 60), (v2, 60), (v3, 60), (v4, 60), (v5, 60), (v6, 60), (v7, 60)] 0 0) 33,
          ByteSpec 60 (streamT 60 [(v0, 60), (v1, 60), (v2, 60), (v3, 60), (v4, 60), (v5, 60), (v6, 60), (v7, 60)] 0 0) 34,
          ByteSpec 60 (streamT 60 [(v0, 60), (v1, 60), (v2, 60), (v3, 60), (v4, 60), (v5, 60), (v6, 60), (v7, 60)] 0 0) 35,
          ByteSpec 60 (streamT 60 [(v0, 60), (v1, 60), (v2, 60), (v3, 60), (v4, 60), (v5, 60), (v6, 60), (v7, 60)] 0 0) 36,
          ByteSpec 60 (streamT 60 [(v0, 60), (v1, 60), (v2, 60), (v3, 60), (v4, 60), (v5, 60), (v6, 60), (v7, 60)] 0 0) 37,
          ByteSpec 60 (streamT 60 [(v0, 60), (v1, 60), (v2, 60), (v3, 60), (v4, 60), (v5, 60), (v6, 60), (v7, 60)] 0 0) 38,
          ByteSpec 60 (streamT 60 [(v0, 60), (v1, 60), (v2, 60), (v3, 60), (v4, 60), (v5, 60), (v6, 60), (v7, 60)] 0 0) 39,
          ByteSpec 60 (streamT 60 [(v0, 60), (v1, 60), (v2, 60), (v3, 60), (v4, 60), (v5, 60), (v6, 60), (v7, 60)] 0 0) 40,
          ByteSpec 60 (streamT 60 [(v0, 60), (v1, 60), (v2, 60), (v3, 60), (v4, 60), (v5, 60), (v6, 60), (v7, 60)] 0 0) 41,
          ByteSpec 60 (streamT 60 [(v0, 60), (v1, 60), (v2, 60), (v3, 60), (v4, 60), (v5, 60), (v6, 60), (v7, 60)] 0 0) 42,
          ByteSpec 60 (streamT 60 [(v0, 60), (v1, 60), (v2, 60), (v3, 60), (v4, 60), (v5, 60), (v6, 60), (v7, 60)] 0 0) 43,
          ByteSpec 60 (streamT 60 [(v0, 60), (v1, 60), (v2, 60), (v3, 60), (v4, 60), (v5, 60), (v6, 60), (v7, 60)] 0 0) 44,
          ByteSpec 60 (streamT 60 [(v0, 60), (v1, 60), (v2, 60), (v3, 60), (v4, 60), (v5, 60), (v6, 60), (v7, 60)] 0 0) 45,
          ByteSpec 60 (streamT 60 [(v0, 60), (v1, 60), (v2, 60), (v3, 60), (v4, 60), (v5, 60), (v6, 60), (v7, 60)] 0 0) 46,
          ByteSpec 60 (streamT 60 [(v0, 60), (v1, 60), (v2, 60), (v3, 60), (v4, 60), (v5, 60), (v6, 60), (v7, 60)] 0 0) 47,
          ByteSpec 60 (streamT 60 [(v0, 60), (v1, 60), (v2, 60), (v3, 60), (v4, 60), (v5, 60), (v6, 60), (v7, 60)] 0 0) 48,
          ByteSpec 60 (streamT 60 [(v0, 60), (v1, 60), (v2, 60), (v3, 60), (v4, 60), (v5, 60), (v6, 60), (v7, 60)] 0 0) 49,
          ByteSpec 60 (streamT 60 [(v0, 60), (v1, 60), (v2, 60), (v3, 60), (v4, 60), (v5, 60), (v6, 60), (v7, 60)] 0 0) 50,
          ByteSpec 60 (streamT 60 [(v0, 60), (v1, 60), (v2, 60), (v3, 60), (v4, 60), (v5, 60), (v6, 60), (v7, 60)] 0 0) 51,
          ByteSpec 60 (streamT 60 [(v0, 60), (v1, 60), (v2, 60), (v3, 60), (v4, 60), (v5, 60), (v6, 60), (v7, 60)] 0 0) 52,
          ByteSpec 60 (streamT 60 [(v0, 60), (v1, 60), (v2, 60), (v3, 60), (v4, 60), (v5, 60), (v6, 60), (v7, 60)] 0 0) 53,
          ByteSpec 60 (streamT 60 [(v0, 60), (v1, 60), (v2, 60), (v3, 60), (v4, 60), (v5, 60), (v6, 60), (v7, 60)] 0 0) 54,
          ByteSpec 60 (streamT 60 [(v0, 60), (v1, 60), (v2, 60), (v3, 60), (v4, 60), (v5, 60), (v6, 60), (v7, 60)] 0 0) 55,
          ByteSpec 60 (streamT 60 [(v0, 60), (v1, 60), (v2, 60), (v3, 60), (v4, 60), (v5, 60), (v6, 60), (v7, 60)] 0 0) 56,
          ByteSpec 60 (streamT 60 [(v0, 60), (v1, 60), (v2, 60), (v3, 60), (v4, 60), (v5, 60), (v6, 60), (v7, 60)] 0 0) 57,
          ByteSpec 60 (streamT 60 [(v0, 60), (v1, 60), (v2, 60), (v3, 60), (v4, 60), (v5, 60), (v6, 60), (v7, 60)] 0 0) 58,
          ByteSpec 60 (streamT 60 [(v0, 60), (v1, 60), (v2, 60), (v3, 60), (v4, 60), (v5, 60), (v6, 60), (v7, 60)] 0 0) 59 ] :=
    (list_eq_map_range_of_getD _ _ 60 hlen hbytes).trans (by rfl)
  have key2 : pack_bits_60 v0 v1 v2 v3 v4 v5 v6 v7
      = [ u8 (((v0 >>> 52) &&& 0xff)),
          u8 (((v0 >>> 44) &&& 0xff)),
          u8 (((v0 >>> 36) &&& 0xff)),
          u8 (((v0 >>> 28) &&& 0xff)),
          u8 (((v0 >>> 20) &&& 0xff)),
          u8 (((v0 >>> 12) &&& 0xff)),
          u8 (((v0 >>> 4) &&& 0xff)),
          u8 (((((v0) &&& 0xf) <<< 4) ||| ((v1 >>> 56) &&& 0xf))),
          u8 (((v1 >>> 48) &&& 0xff)),
          u8 (((v1 >>> 40) &&& 0xff)),
          u8 (((v1 >>> 32) &&& 0xff)),
          u8 (((v1 >>> 24) &&& 0xff)),
          u8 (((v1 >>> 16) &&& 0xff)),
          u8 (((v1 >>> 8) &&& 0xff)),
          u8 (((v1) &&& 0xff)),
          u8 (((v2 >>> 52) &&& 0xff)),
          u8 (((v2 >>> 44) &&& 0xff)),
          u8 (((v2 >>> 36) &&& 0xff)),
          u8 (((v2 >>> 28) &&& 0xff)),
          u8 (((v2 >>> 20) &&& 0xff)),
          u8 (((v2 >>> 12) &&& 0xff)),
          u8 (((v2 >>> 4) &&& 0xff)),
          u8 (((((v2) &&& 0xf) <<< 4) ||| ((v3 >>> 56) &&& 0xf))),
          u8 (((v3 >>> 48) &&& 0xff)),
          u8 (((v3 >>> 40) &&& 0xff)),
          u8 (((v3 >>> 32) &&& 0xff)),
          u8 (((v3 >>> 24) &&& 0xff)),
          u8 (((v3 >>> 16) &&& 0xff)),
          u8 (((v3 >>> 8) &&& 0xff)),
          u8 (((v3) &&& 0xff)),
          u8 (((v4 >>> 52) &&& 0xff)),
          u8 (((v4 >>> 44) &&& 0xff)),
          u8 (((v4 >>> 36) &&& 0xff)),
          u8 (((v4 >>> 28) &&& 0xff)),
          u8 (((v4 >>> 20) &&& 0xff)),
          u8 (((v4 >>> 12) &&& 0xff)),
          u8 (((v4 >>> 4) &&& 0xff)),
          u8 (((((v4) &&& 0xf) <<< 4) ||| ((v5 >>> 56) &&& 0xf))),
          u8 (((v5 >>> 48) &&& 0xff)),
          u8 (((v5 >>> 40) &&& 0xff)),
          u8 (((v5 >>> 32) &&& 0xff)),
          u8 (((v5 >>> 24) &&& 0xff)),
          u8 (((v5 >>> 16) &&& 0xff)),
          u8 (((v5 >>> 8) &&& 0xff)),
          u8 (((v5) &&& 0xff)),
          u8 (((v6 >>> 52) &&& 0xff)),
          u8 (((v6 >>> 44) &&& 0xff)),
          u8 (((v6 >>> 36) &&& 0xff)),
          u8 (((v6 >>> 28) &&& 0xff)),
          u8 (((v6 >>> 20) &&& 0xff)),
          u8 (((v6 >>> 12) &&& 0xff)),
          u8 (((v6 >>> 4) &&& 0xff)),
          u8 (((((v6) &&& 0xf) <<< 4) ||| ((v7 >>> 56) &&& 0xf))),
          u8 (((v7 >>> 48) &&& 0xff)),
          u8 (((v7 >>> 40) &&& 0xff)),
          u8 (((v7 >>> 32) &&& 0xff)),
          u8 (((v7 >>> 24) &&& 0xff)),
          u8 (((v7 >>> 16) &&& 0xff)),
          u8 (((v7 >>> 8) &&& 0xff)),
          u8 (((v7) &&& 0xff)) ] := rfl
  obtain ⟨A0, S0, hT0, hA0, hS0⟩ :=
    streamT_decomp 60 [(v0, 60), (v1, 60), (v2, 60), (v3, 60), (v4, 60), (v5, 60), (v6, 60), (v7, 60)] [] [(v1, 60), (v2, 60), (v3, 60), (v4, 60), (v5, 60), (v6, 60), (v7, 60)] v0 60 0 rfl rfl hvs
      (by norm_num [List.map_cons, List.map_nil, List.sum_cons, List.sum_nil])
  obtain ⟨A1, S1, hT1, hA1, hS1⟩ :=
    streamT_decomp 60 [(v0, 60), (v1, 60), (v2, 60), (v3, 60), (v4, 60), (v5, 60), (v6, 60), (v7, 60)] [(v0, 60)] [(v2, 60), (v3, 60), (v4, 60), (v5, 60), (v6, 60), (v7, 60)] v1 60 60 rfl rfl hvs
      (by norm_num [List.map_cons, List.map_nil, List.sum_cons, List.sum_nil])
  obtain ⟨A2, S2, hT2, hA2, hS2⟩ :=
    streamT_decomp 60 [(v0, 60), (v1, 60), (v2, 60), (v3, 60), (v4, 60), (v5, 60), (v6, 60), (v7, 60)] [(v0, 60), (v1, 60)] [(v3, 60), (v4, 60), (v5, 60), (v6, 60), (v7, 60)] v2 60 120 rfl rfl hvs
      (by norm_num [List.map_cons, List.map_nil, List.sum_cons, List.sum_nil])
  obtain ⟨A3, S3, hT3, hA3, hS3⟩ :=
    streamT_decomp 60 [(v0, 60), (v1, 60), (v2, 60), (v3, 60), (v4, 60), (v5, 60), (v6, 60), (v7, 60)] [(v0, 60), (v1, 60), (v2, 60)] [(v4, 60), (v5, 60), (v6, 60), (v7, 60)] v3 60 180 rfl rfl hvs
      (by norm_num [List.map_cons, List.map_nil, List.sum_cons, List.sum_nil])
  obtain ⟨A4, S4, hT4, hA4, hS4⟩ :=
    streamT_decomp 60 [(v0, 60), (v1, 60), (v2, 60), (v3, 60), (v4, 60), (v5, 60), (v6, 60), (v7, 60)] [(v0, 60), (v1, 60), (v2, 60), (v3, 60)] [(v5, 60), (v6, 60), (v7, 60)] v4 60 240 rfl rfl hvs
      (by norm_num [List.map_cons, List.map_nil, List.sum_cons, List.sum_nil])
  obtain ⟨A5, S5, hT5, hA5, hS5⟩ :=
    streamT_decomp 60 [(v0, 60), (v1, 60), (v2, 60), (v3, 60), (v4, 60), (v5, 60), (v6, 60), (v7, 60)] [(v0, 60), (v1, 60), (v2, 60), (v3, 60), (v4, 60)] [(v6, 60), (v7, 60)] v5 60 300 rfl rfl hvs
      (by norm_num [List.map_cons, List.map_nil, List.sum_cons, List.sum_nil])
  obtain ⟨A6, S6, hT6, hA6, hS6⟩ :=
    streamT_decomp 60 [(v0, 60), (v1, 60), (v2, 60), (v3, 60), (v4, 60), (v5, 60), (v6, 60), (v7, 60)] [(v0, 60), (v1, 60), (v2, 60), (v3, 60), (v4, 60), (v5, 60)] [(v7, 60)] v6 60 360 rfl rfl hvs
      (by norm_num [List.map_cons, List.map_nil, List.sum_cons, List.sum_nil])
  obtain ⟨A7, S7, hT7, hA7, hS7⟩ :=
    streamT_decomp 60 [(v0, 60), (v1, 60), (v2, 60), (v3, 60), (v4, 60), (v5, 60), (v6, 60), (v7, 60)] [(v0, 60), (v1, 60), (v2, 60), (v3, 60), (v4, 60), (v5, 60), (v6, 60)] [] v7 60 420 rfl rfl hvs
      (by norm_num [List.map_cons, List.map_nil, List.sum_cons, List.sum_nil])
  obtain ⟨B0, R0, hU0, hB0, hR0⟩ :=
    streamT_decomp2 60 [(v0, 60), (v1, 60), (v2, 60), (v3, 60), (v4, 60), (v5, 60), (v6, 60), (v7, 60)] [] [(v2, 60), (v3, 60), (v4, 60), (v5, 60), (v6, 60), (v7, 60)] v0 v1 60 60 0 rfl rfl hvs
      (by norm_num [List.map_cons, List.map_nil, List.sum_cons, List.sum_nil])
  obtain ⟨B2, R2, hU2, hB2, hR2⟩ :=
    streamT_decomp2 60 [(v0, 60), (v1, 60), (v2, 60), (v3, 60), (v4, 60), (v5, 60), (v6, 60), (v7, 60)] [(v0, 60), (v1, 60)] [(v4, 60), (v5, 60), (v6, 60), (v7, 60)] v2 v3 60 60 120 rfl rfl hvs
      (by norm_num [List.map_cons, List.map_nil, List.sum_cons, List.sum_nil])
  obtain ⟨B4, R4, hU4, hB4, hR4⟩ :=
    streamT_decomp2 60 [(v0, 60), (v1, 60), (v2, 60), (v3, 60), (v4, 60), (v5, 60), (v6, 60), (v7, 60)] [(v0, 60), (v1, 60), (v2, 60), (v3, 60)] [(v6, 60), (v7, 60)] v4 v5 60 60 240 rfl rfl hvs
      (by norm_num [List.map_cons, List.map_nil, List.sum_cons, List.sum_nil])
  obtain ⟨B6, R6, hU6, hB6, hR6⟩ :=
    streamT_decomp2 60 [(v0, 60), (v1, 60), (v2, 60), (v3, 60), (v4, 60), (v5, 60), (v6, 60), (v7, 60)] [(v0, 60), (v1, 60), (v2, 60), (v3, 60), (v4, 60), (v5, 60)] [] v6 v7 60 60 360 rfl rfl hvs
      (by norm_num [List.map_cons, List.map_nil, List.sum_cons, List.sum_nil])
  rw [key, key2]
  simp only [List.cons.injEq]
  refine ⟨?_, ?_, ?_, ?_, ?_, ?_, ?_, ?_, ?_, ?_, ?_, ?_, ?_, ?_, ?_, ?_, ?_, ?_, ?_, ?_, ?_, ?_, ?_, ?_, ?_, ?_, ?_, ?_, ?_, ?_, ?_, ?_, ?_, ?_, ?_, ?_, ?_, ?_, ?_, ?_, ?_, ?_, ?_, ?_, ?_, ?_, ?_, ?_, ?_, ?_, ?_, ?_, ?_, ?_, ?_, ?_, ?_, ?_, ?_, ?_, trivial⟩
  · rw [hT0]
    exact byteSpec_mid 60 A0 v0 S0 (8 * 60 - 0 - 60) 60 0 52 hA0 hS0
      (by norm_num) (by norm_num)
  · rw [hT0]
    exact byteSpec_mid 60 A0 v0 S0 (8 * 60 - 0 - 60) 60 1 44 hA0 hS0
      (by norm_num) (by norm_num)
  · rw [hT0]
    exact byteSpec_mid 60 A0 v0 S0 (8 * 60 - 0 - 60) 60 2 36 hA0 hS0
      (by norm_num) (by norm_num)
  · rw [hT0]
    exact byteSpec_mid 60 A0 v0 S0 (8 * 60 - 0 - 60) 60 3 28 hA0 hS0
      (by norm_num) (by norm_num)
  · rw [hT0]
    exact byteSpec_mid 60 A0 v0 S0 (8 * 60 - 0 - 60) 60 4 20 hA0 hS0
      (by norm_num) (by norm_num)
  · rw [hT0]
    exact byteSpec_mid 60 A0 v0 S0 (8 * 60 - 0 - 60) 60 5 12 hA0 hS0
      (by norm_num) (by norm_num)
  · rw [hT0]
    exact byteSpec_mid 60 A0 v0 S0 (8 * 60 - 0 - 60) 60 6 4 hA0 hS0
      (by norm_num) (by norm_num)
  · rw [hU0]
    exact byteSpec_bnd 60 B0 v0 v1 R0 (8 * 60 - 0 - 60 - 60) 7 4 4 56 15 15 60 hB0 hv0 hv1 hR0
      (by norm_num) (by norm_num) (by norm_num) (by norm_num) (by norm_num)
  · rw [hT1]
    exact byteSpec_mid 60 A1 v1 S1 (8 * 60 - 60 - 60) 60 8 48 hA1 hS1
      (by norm_num) (by norm_num)
  · rw [hT1]
    exact byteSpec_mid 60 A1 v1 S1 (8 * 60 - 60 - 60) 60 9 40 hA1 hS1
      (by norm_num) (by norm_num)
  · rw [hT1]
    exact byteSpec_mid 60 A1 v1 S1 (8 * 60 - 60 - 60) 60 10 32 hA1 hS1
      (by norm_num) (by norm_num)
  · rw [hT1]
    exact byteSpec_mid 60 A1 v1 S1 (8 * 60 - 60 - 60) 60 11 24 hA1 hS1
      (by norm_num) (by norm_num)
  · rw [hT1]
    exact byteSpec_mid 60 A1 v1 S1 (8 * 60 - 60 - 60) 60 12 16 hA1 hS1
      (by norm_num) (by norm_num)
  · rw [hT1]
    exact byteSpec_mid 60 A1 v1 S1 (8 * 60 - 60 - 60) 60 13 8 hA1 hS1
      (by norm_num) (by norm_num)
  · rw [hT1]
    exact byteSpec_mid0 60 A1 v1 S1 (8 * 60 - 60 - 60) 60 14 hA1 hS1
      (by norm_num) (by norm_num)
  · rw [hT2]
    exact byteSpec_mid 60 A2 v2 S2 (8 * 60 - 120 - 60) 60 15 52 hA2 hS2
      (by norm_num) (by norm_num)
  · rw [hT2]
    exact byteSpec_mid 60 A2 v2 S2 (8 * 60 - 120 - 60) 60 16 44 hA2 hS2
      (by norm_num) (by norm_num)
  · rw [hT2]
    exact byteSpec_mid 60 A2 v2 S2 (8 * 60 - 120 - 60) 60 17 36 hA2 hS2
      (by norm_num) (by norm_num)
  · rw [hT2]
    exact byteSpec_mid 60 A2 v2 S2 (8 * 60 - 120 - 60) 60 18 28 hA2 hS2
      (by norm_num) (by norm_num)
  · rw [hT2]
    exact byteSpec_mid 60 A2 v2 S2 (8 * 60 - 120 - 60) 60 19 20 hA2 hS2
      (by norm_num) (by norm_num)
  · rw [hT2]
    exact byteSpec_mid 60 A2 v2 S2 (8 * 60 - 120 - 60) 60 20 12 hA2 hS2
      (by norm_num) (by norm_num)
  · rw [hT2]
    exact byteSpec_mid 60 A2 v2 S2 (8 * 60 - 120 - 60) 60 21 4 hA2 hS2
      (by norm_num) (by norm_num)
  · rw [hU2]
    exact byteSpec_bnd 60 B2 v2 v3 R2 (8 * 60 - 120 - 60 - 60) 22 4 4 56 15 15 60 hB2 hv2 hv3 hR2
      (by norm_num) (by norm_num) (by norm_num) (by norm_num) (by norm_num)
  · rw [hT3]
    exact byteSpec_mid 60 A3 v3 S3 (8 * 60 - 180 - 60) 60 23 48 hA3 hS3
      (by norm_num) (by norm_num)
  · rw [hT3]
    exact byteSpec_mid 60 A3 v3 S3 (8 * 60 - 180 - 60) 60 24 40 hA3 hS3
      (by norm_num) (by norm_num)
  · rw [hT3]
    exact byteSpec_mid 60 A3 v3 S3 (8 * 60 - 180 - 60) 60 25 32 hA3 hS3
      (by norm_num) (by norm_num)
  · rw [hT3]
    exact byteSpec_mid 60 A3 v3 S3 (8 * 60 - 180 - 60) 60 26 24 hA3 hS3
      (by norm_num) (by norm_num)
  · rw [hT3]
    exact byteSpec_mid 60 A3 v3 S3 (8 * 60 - 180 - 60) 60 27 16 hA3 hS3
      (by norm_num) (by norm_num)
  · rw [hT3]
    exact byteSpec_mid 60 A3 v3 S3 (8 * 60 - 180 - 60) 60 28 8 hA3 hS3
      (by norm_num) (by norm_num)
  · rw [hT3]
    exact byteSpec_mid0 60 A3 v3 S3 (8 * 60 - 180 - 60) 60 29 hA3 hS3
      (by norm_num) (by norm_num)
  · rw [hT4]
    exact byteSpec_mid 60 A4 v4 S4 (8 * 60 - 240 - 60) 60 30 52 hA4 hS4
      (by norm_num) (by norm_num)
  · rw [hT4]
    exact byteSpec_mid 60 A4 v4 S4 (8 * 60 - 240 - 60) 60 31 44 hA4 hS4
      (by norm_num) (by norm_num)
  · rw [hT4]
    exact byteSpec_mid 60 A4 v4 S4 (8 * 60 - 240 - 60) 60 32 36 hA4 hS4
      (by norm_num) (by norm_num)
  · rw [hT4]
    exact byteSpec_mid 60 A4 v4 S4 (8 * 60 - 240 - 60) 60 33 28 hA4 hS4
      (by norm_num) (by norm_num)
  · rw [hT4]
    exact byteSpec_mid 60 A4 v4 S4 (8 * 60 - 240 - 60) 60 34 20 hA4 hS4
      (by norm_num) (by norm_num)
  · rw [hT4]
    exact byteSpec_mid 60 A4 v4 S4 (8 * 60 - 240 - 60) 60 35 12 hA4 hS4
      (by norm_num) (by norm_num)
  · rw [hT4]
    exact byteSpec_mid 60 A4 v4 S4 (8 * 60 - 240 - 60) 60 36 4 hA4 hS4
      (by norm_num) (by norm_num)
  · rw [hU4]
    exact byteSpec_bnd 60 B4 v4 v5 R4 (8 * 60 - 240 - 60 - 60) 37 4 4 56 15 15 60 hB4 hv4 hv5 hR4
      (by norm_num) (by norm_num) (by norm_num) (by norm_num) (by norm_num)
  · rw [hT5]
    exact byteSpec_mid 60 A5 v5 S5 (8 * 60 - 300 - 60) 60 38 48 hA5 hS5
      (by norm_num) (by norm_num)
  · rw [hT5]
    exact byteSpec_mid 60 A5 v5 S5 (8 * 60 - 300 - 60) 60 39 40 hA5 hS5
      (by norm_num) (by norm_num)
  · rw [hT5]
    exact byteSpec_mid 60 A5 v5 S5 (8 * 60 - 300 - 60) 60 40 32 hA5 hS5
      (by norm_num) (by norm_num)
  · rw [hT5]
    exact byteSpec_mid 60 A5 v5 S5 (8 * 60 - 300 - 60) 60 41 24 hA5 hS5
      (by norm_num) (by norm_num)
  · rw [hT5]
    exact byteSpec_mid 60 A5 v5 S5 (8 * 60 - 300 - 60) 60 42 16 hA5 hS5
      (by norm_num) (by norm_num)
  · rw [hT5]
    exact byteSpec_mid 60 A5 v5 S5 (8 * 60 - 300 - 60) 60 43 8 hA5 hS5
      (by norm_num) (by norm_num)
  · rw [hT5]
    exact byteSpec_mid0 60 A5 v5 S5 (8 * 60 - 300 - 60) 60 44 hA5 hS5
      (by norm_num) (by norm_num)
  · rw [hT6]
    exact byteSpec_mid 60 A6 v6 S6 (8 * 60 - 360 - 60) 60 45 52 hA6 hS6
      (by norm_num) (by norm_num)
  · rw [hT6]
    exact byteSpec_mid 60 A6 v6 S6 (8 * 60 - 360 - 60) 60 46 44 hA6 hS6
      (by norm_num) (by norm_num)
  · rw [hT6]
    exact byteSpec_mid 60 A6 v6 S6 (8 * 60 - 360 - 60) 60 47 36 hA6 hS6
      (by norm_num) (by norm_num)
  · rw [hT6]
    exact byteSpec_mid 60 A6 v6 S6 (8 * 60 - 360 - 60) 60 48 28 hA6 hS6
      (by norm_num) (by norm_num)
  · rw [hT6]
    exact byteSpec_mid 60 A6 v6 S6 (8 * 60 - 360 - 60) 60 49 20 hA6 hS6
      (by norm_num) (by norm_num)
  · rw [hT6]
    exact byteSpec_mid 60 A6 v6 S6 (8 * 60 - 360 - 60) 60 50 12 hA6 hS6
      (by norm_num) (by norm_num)
  · rw [hT6]
    exact byteSpec_mid 60 A6 v6 S6 (8 * 60 - 360 - 60) 60 51 4 hA6 hS6
      (by norm_num) (by norm_num)
  · rw [hU6]
    exact byteSpec_bnd 60 B6 v6 v7 R6 (8 * 60 - 360 - 60 - 60) 52 4 4 56 15 15 60 hB6 hv6 hv7 hR6
      (by norm_num) (by norm_num) (by norm_num) (by norm_num) (by norm_num)
  · rw [hT7]
    exact byteSpec_mid 60 A7 v7 S7 (8 * 60 - 420 - 60) 60 53 48 hA7 hS7
      (by norm_num) (by norm_num)
  · rw [hT7]
    exact byteSpec_mid 60 A7 v7 S7 (8 * 60 - 420 - 60) 60 54 40 hA7 hS7
      (by norm_num) (by norm_num)
  · rw [hT7]
    exact byteSpec_mid 60 A7 v7 S7 (8 * 60 - 420 - 60) 60 55 32 hA7 hS7
      (by norm_num) (by norm_num)
  · rw [hT7]
    exact byteSpec_mid 60 A7 v7 S7 (8 * 60 - 420 - 60) 60 56 24 hA7 hS7
      (by norm_num) (by norm_num)
  · rw [hT7]
    exact byteSpec_mid 60 A7 v7 S7 (8 * 60 - 420 - 60) 60 57 16 hA7 hS7
      (by norm_num) (by norm_num)
  · rw [hT7]
    exact byteSpec_mid 60 A7 v7 S7 (8 * 60 - 420 - 60) 60 58 8 hA7 hS7
      (by norm_num) (by norm_num)
  · rw [hT7]
    exact byteSpec_mid0 60 A7 v7 S7 (8 * 60 - 420 - 60) 60 59 hA7 hS7
      (by norm_num) (by norm_num)

set_option maxRecDepth 16000 in
set_option maxHeartbeats 1000000 in
theorem c5_pack_eq_61 (v0 v1 v2 v3 v4 v5 v6 v7 : Nat) (hv0 : v0 < 2 ^ 61) (hv1 : v1 < 2 ^ 61) (hv2 : v2 < 2 ^ 61) (hv3 : v3 < 2 ^ 61) (hv4 : v4 < 2 ^ 61) (hv5 : v5 < 2 ^ 61) (hv6 : v6 < 2 ^ 61) (hv7 : v7 < 2 ^ 61) :
    (packSeq (BitPacker.new (List.replicate 61 0)) [(v0, 61), (v1, 61), (v2, 61), (v3, 61), (v4, 61), (v5, 61), (v6, 61), (v7, 61)]).bytes
      = pack_bits_61 v0 v1 v2 v3 v4 v5 v6 v7 := by
  have hvs : ∀ p ∈ ([(v0, 61), (v1, 61), (v2, 61), (v3, 61), (v4, 61), (v5, 61), (v6, 61), (v7, 61)] : List (Nat × Nat)), p.1 < 2 ^ p.2 := by
    intro p hp
    simp only [List.mem_cons, List.not_mem_nil, or_false] at hp
    rcases hp with rfl | rfl | rfl | rfl | rfl | rfl | rfl | rfl
    exacts [hv0, hv1, hv2, hv3, hv4, hv5, hv6, hv7]
  obtain ⟨-, -, -, ⟨hlen, hbytes⟩, -, -⟩ :=
    packSeq_inv 61 [(v0, 61), (v1, 61), (v2, 61), (v3, 61), (v4, 61), (v5, 61), (v6, 61), (v7, 61)] 0 0 _ hvs
      (by norm_num [List.map_cons, List.map_nil, List.sum_cons, List.sum_nil]) (packInv_init 61)
  have key : (packSeq (BitPacker.new (List.replicate 61 0)) [(v0, 61), (v1, 61), (v2, 61), (v3, 61), (v4, 61), (v5, 61), (v6, 61), (v7, 61)]).bytes
      = [ ByteSpec 61 (streamT 61 [(v0, 61), (v1, 61), (v2, 61), (v3, 61), (v4, 61), (v5, 61), (v6, 61), (v7, 61)] 0 0) 0,
          ByteSpec 61 (streamT 61 [(v0, 61), (v1, 61), (v2, 61), (v3, 61), (v4, 61), (v5, 61), (v6, 61), (v7, 61)] 0 0) 1,
          ByteSpec 61 (streamT 61 [(v0, 61), (v1, 61), (v2, 61), (v3, 61), (v4, 61), (v5, 61), (v6, 61), (v7, 61)] 0 0) 2,
          ByteSpec 61 (streamT 61 [(v0, 61), (v1, 61), (v2, 61), (v3, 61), (v4, 61), (v5, 61), (v6, 61), (v7, 61)] 0 0) 3,
          ByteSpec 61 (streamT 61 [(v0, 61), (v1, 61), (v2, 61), (v3, 61), (v4, 61), (v5, 61), (v6, 61), (v7, 61)] 0 0) 4,
          ByteSpec 61 (streamT 61 [(v0, 61), (v1, 61), (v2, 61), (v3, 61), (v4, 61), (v5, 61), (v6, 61), (v7, 61)] 0 0) 5,
          ByteSpec 61 (streamT 61 [(v0, 61), (v1, 61), (v2, 61), (v3, 61), (v4, 61), (v5, 61), (v6, 61), (v7, 61)] 0 0) 6,
          ByteSpec 61 (streamT 61 [(v0, 61), (v1, 61), (v2, 61), (v3, 61), (v4, 61), (v5, 61), (v6, 61), (v7, 61)] 0 0) 7,
          ByteSpec 61 (streamT 61 [(v0, 61), (v1, 61), (v2, 61), (v3, 61), (v4, 61), (v5, 61), (v6, 61), (v7, 61)] 0 0) 8,
          ByteSpec 61 (streamT 61 [(v0, 61), (v1, 61), (v2, 61), (v3, 61), (v4, 61), (v5, 61), (v6, 61), (v7, 61)] 0 0) 9,
          ByteSpec 61 (streamT 61 [(v0, 61), (v1, 61), (v2, 61), (v3, 61), (v4, 61), (v5, 61), (v6, 61), (v7, 61)] 0 0) 10,
          ByteSpec 61 (streamT 61 [(v0, 61), (v1, 61), (v2, 61), (v3, 61), (v4, 61), (v5, 61), (v6, 61), (v7, 61)] 0 0) 11,
          ByteSpec 61 (streamT 61 [(v0, 61), (v1, 61), (v2, 61), (v3, 61), (v4, 61), (v5, 61), (v6, 61), (v7, 61)] 0 0) 12,
          ByteSpec 61 (streamT 61 [(v0, 61), (v1, 61), (v2, 61), (v3, 61), (v4, 61), (v5, 61), (v6, 61), (v7, 61)] 0 0) 13,
          ByteSpec 61 (streamT 61 [(v0, 61), (v1, 61), (v2, 61), (v3, 61), (v4, 61), (v5, 61), (v6, 61), (v7, 61)] 0 0) 14,
          ByteSpec 61 (streamT 61 [(v0, 61), (v1, 61), (v2, 61), (v3, 61), (v4, 61), (v5, 61), (v6, 61), (v7, 61)] 0 0) 15,
          ByteSpec 61 (streamT 61 [(v0, 61), (v1, 61), (v2, 61), (v3, 61), (v4, 61), (v5, 61), (v6, 61), (v7, 61)] 0 0) 16,
          ByteSpec 61 (streamT 61 [(v0, 61), (v1, 61), (v2, 61), (v3, 61), (v4, 61), (v5, 61), (v6, 61), (v7, 61)] 0 0) 17,
          ByteSpec 61 (streamT 61 [(v0, 61), (v1, 61), (v2, 61), (v3, 61), (v4, 61), (v5, 61), (v6, 61), (v7, 61)] 0 0) 18,
          ByteSpec 61 (streamT 61 [(v0, 61), (v1, 61), (v2, 61), (v3, 61), (v4, 61), (v5, 61), (v6, 61), (v7, 61)] 0 0) 19,
          ByteSpec 61 (streamT 61 [(v0, 61), (v1, 61), (v2, 61), (v3, 61), (v4, 61), (v5, 61), (v6, 61), (v7, 61)] 0 0) 20,
          ByteSpec 61 (streamT 61 [(v0, 61), (v1, 61), (v2, 61), (v3, 61), (v4, 61), (v5, 61), (v6, 61), (v7, 61)] 0 0) 21,
          ByteSpec 61 (streamT 61 [(v0, 61), (v1, 61), (v2, 61), (v3, 61), (v4, 61), (v5, 61), (v6, 61), (v7, 61)] 0 0) 22,
          ByteSpec 61 (streamT 61 [(v0, 61), (v1, 61), (v2, 61), (v3, 61), (v4, 61), (v5, 61), (v6, 61), (v7, 61)] 0 0) 23,
          ByteSpec 61 (streamT 61 [(v0, 61), (v1, 61), (v2, 61), (v3, 61), (v4, 61), (v5, 61), (v6, 61), (v7, 61)] 0 0) 24,
          ByteSpec 61 (streamT 61 [(v0, 61), (v1, 61), (v2, 61), (v3, 61), (v4, 61), (v5, 61), (v6, 61), (v7, 61)] 0 0) 25,
          ByteSpec 61 (streamT 61 [(v0, 61), (v1, 61), (v2, 61), (v3, 61), (v4, 61), (v5, 61), (v6, 61), (v7, 61)] 0 0) 26,
          ByteSpec 61 (streamT 61 [(v0, 61), (v1, 61), (v2, 61), (v3, 61), (v4, 61), (v5, 61), (v6, 61), (v7, 61)] 0 0) 27,
          ByteSpec 61 (streamT 61 [(v0, 61), (v1, 61), (v2, 61), (v3, 61), (v4, 61), (v5, 61), (v6, 61), (v7, 61)] 0 0) 28,
          ByteSpec 61 (streamT 61 [(v0, 61), (v1, 61), (v2, 61), (v3, 61), (v4, 61), (v5, 61), (v6, 61), (v7, 61)] 0 0) 29,
          ByteSpec 61 (streamT 61 [(v0, 61), (v1, 61), (v2, 61), (v3, 61), (v4, 61), (v5, 61), (v6, 61), (v7, 61)] 0 0) 30,
          ByteSpec 61 (streamT 61 [(v0, 61), (v1, 61), (v2, 61), (v3, 61), (v4, 61), (v5, 61), (v6, 61), (v7, 61)] 0 0) 31,
          ByteSpec 61 (streamT 61 [(v0, 61), (v1, 61), (v2, 61), (v3, 61), (v4, 61), (v5, 61), (v6, 61), (v7, 61)] 0 0) 32,
          ByteSpec 61 (streamT 61 [(v0, 61), (v1, 61), (v2, 61), (v3, 61), (v4, 61), (v5, 61), (v6, 61), (v7, 61)] 0 0) 33,
          ByteSpec 61 (streamT 61 [(v0, 61), (v1, 61), (v2, 61), (v3, 61), (v4, 61), (v5, 61), (v6, 61), (v7, 61)] 0 0) 34,
          ByteSpec 61 (streamT 61 [(v0, 61), (v1, 61), (v2, 61), (v3, 61), (v4, 61), (v5, 61), (v6, 61), (v7, 61)] 0 0) 35,
          ByteSpec 61 (streamT 61 [(v0, 61), (v1, 61), (v2, 61), (v3, 61), (v4, 61), (v5, 61), (v6, 61), (v7, 61)] 0 0) 36,
          ByteSpec 61 (streamT 61 [(v0, 61), (v1, 61), (v2, 61), (v3, 61), (v4, 61), (v5, 61), (v6, 61), (v7, 61)] 0 0) 37,
          ByteSpec 61 (streamT 61 [(v0, 61), (v1, 61), (v2, 61), (v3, 61), (v4, 61), (v5, 61), (v6, 61), (v7, 61)] 0 0) 38,
          ByteSpec 61 (streamT 61 [(v0, 61), (v1, 61), (v2, 61), (v3, 61), (v4, 61), (v5, 61), (v6, 61), (v7, 61)] 0 0) 39,
          ByteSpec 61 (streamT 61 [(v0, 61), (v1, 61), (v2, 61), (v3, 61), (v4, 61), (v5, 61), (v6, 61), (v7, 61)] 0 0) 40,
          ByteSpec 61 (streamT 61 [(v0, 61), (v1, 61), (v2, 61), (v3, 61), (v4, 61), (v5, 61), (v6, 61), (v7, 61)] 0 0) 41,
          ByteSpec 61 (streamT 61 [(v0, 61), (v1, 61), (v2, 61), (v3, 61), (v4, 61), (v5, 61), (v6, 61), (v7, 61)] 0 0) 42,
          ByteSpec 61 (streamT 61 [(v0, 61), (v1, 61), (v2, 61), (v3, 61), (v4, 61), (v5, 61), (v6, 61), (v7, 61)] 0 0) 43,
          ByteSpec 61 (streamT 61 [(v0, 61), (v1, 61), (v2, 61), (v3, 61), (v4, 61), (v5, 61), (v6, 61), (v7, 61)] 0 0) 44,
          ByteSpec 61 (streamT 61 [(v0, 61), (v1, 61), (v2, 61), (v3, 61), (v4, 61), (v5, 61), (v6, 61), (v7, 61)] 0 0) 45,
          ByteSpec 61 (streamT 61 [(v0, 61), (v1, 61), (v2, 61), (v3, 61), (v4, 61), (v5, 61), (v6, 61), (v7, 61)] 0 0) 46,
          ByteSpec 61 (streamT 61 [(v0, 61), (v1, 61), (v2, 61), (v3, 61), (v4, 61), (v5, 61), (v6, 61), (v7, 61)] 0 0) 47,
          ByteSpec 61 (streamT 61 [(v0, 61), (v1, 61), (v2, 61), (v3, 61), (v4, 61), (v5, 61), (v6, 61), (v7, 61)] 0 0) 48,
          ByteSpec 61 (streamT 61 [(v0, 61), (v1, 61), (v2, 61), (v3, 61), (v4, 61), (v5, 61), (v6, 61), (v7, 61)] 0 0) 49,
          ByteSpec 61 (streamT 61 [(v0, 61), (v1, 61), (v2, 61), (v3, 61), (v4, 61), (v5, 61), (v6, 61), (v7, 61)] 0 0) 50,
          ByteSpec 61 (streamT 61 [(v0, 61), (v1, 61), (v2, 61), (v3, 61), (v4, 61), (v5, 61), (v6, 61), (v7, 61)] 0 0) 51,
          ByteSpec 61 (streamT 61 [(v0, 61), (v1, 61), (v2, 61), (v3, 61), (v4, 61), (v5, 61), (v6, 61), (v7, 61)] 0 0) 52,
          ByteSpec 61 (streamT 61 [(v0, 61), (v1, 61), (v2, 61), (v3, 61), (v4, 61), (v5, 61), (v6, 61), (v7, 61)] 0 0) 53,
          ByteSpec 61 (streamT 61 [(v0, 61), (v1, 61), (v2, 61), (v3, 61), (v4, 61), (v5, 61), (v6, 61), (v7, 61)] 0 0) 54,
          ByteSpec 61 (streamT 61 [(v0, 61), (v1, 61), (v2, 61), (v3, 61), (v4, 61), (v5, 61), (v6, 61), (v7, 61)] 0 0) 55,
          ByteSpec 61 (streamT 61 [(v0, 61), (v1, 61), (v2, 61), (v3, 61), (v4, 61), (v5, 61), (v6, 61), (v7, 61)] 0 0) 56,
          ByteSpec 61 (streamT 61 [(v0, 61), (v1, 61), (v2, 61), (v3, 61), (v4, 61), (v5, 61), (v6, 61), (v7, 61)] 0 0) 57,
          ByteSpec 61 (streamT 61 [(v0, 61), (v1, 61), (v2, 61), (v3, 61), (v4, 61), (v5, 61), (v6, 61), (v7, 61)] 0 0) 58,
          ByteSpec 61 (streamT 61 [(v0, 61), (v1, 61), (v2, 61), (v3, 61), (v4, 61), (v5, 61), (v6, 61), (v7, 61)] 0 0) 59,
          ByteSpec 61 (streamT 61 [(v0, 61), (v1, 61), (v2, 61), (v3, 61), (v4, 61), (v5, 61), (v6, 61), (v7, 61)] 0 0) 60 ] :=
    (list_eq_map_range_of_getD _ _ 61 hlen hbytes).trans (by rfl)
  have key2 : pack_bits_61 v0 v1 v2 v3 v4 v5 v6 v7
      = [ u8 (((v0 >>> 53) &&& 0xff)),
          u8 (((v0 >>> 45) &&& 0xff)),
          u8 (((v0 >>> 37) &&& 0xff)),
          u8 (((v0 >>> 29) &&& 0xff)),
          u8 (((v0 >>> 21) &&& 0xff)),
          u8 (((v0 >>> 13) &&& 0xff)),
          u8 (((v0 >>> 5) &&& 0xff)),
          u8 (((((v0) &&& 0x1f) <<< 3) ||| ((v1 >>> 58) &&& 0x7))),
          u8 (((v1 >>> 50) &&& 0xff)),
          u8 (((v1 >>> 42) &&& 0xff)),
          u8 (((v1 >>> 34) &&& 0xff)),
          u8 (((v1 >>> 26) &&& 0xff)),
          u8 (((v1 >>> 18) &&& 0xff)),
          u8 (((v1 >>> 10) &&& 0xff)),
          u8 (((v1 >>> 2) &&& 0xff)),
          u8 (((((v1) &&& 0x3) <<< 6) ||| ((v2 >>> 55) &&& 0x3f))),
          u8 (((v2 >>> 47) &&& 0xff)),
          u8 (((v2 >>> 39) &&& 0xff)),
          u8 (((v2 >>> 31) &&& 0xff)),
          u8 (((v2 >>> 23) &&& 0xff)),
          u8 (((v2 >>> 15) &&& 0xff)),
          u8 (((v2 >>> 7) &&& 0xff)),
          u8 (((((v2) &&& 0x7f) <<< 1) ||| ((v3 >>> 60) &&& 0x1))),
          u8 (((v3 >>> 52) &&& 0xff)),
          u8 (((v3 >>> 44) &&& 0xff)),
          u8 (((v3 >>> 36) &&& 0xff)),
          u8 (((v3 >>> 28) &&& 0xff)),
          u8 (((v3 >>> 20) &&& 0xff)),
          u8 (((v3 >>> 12) &&& 0xff)),
          u8 (((v3 >>> 4) &&& 0xff)),
          u8 (((((v3) &&& 0xf) <<< 4) ||| ((v4 >>> 57) &&& 0xf))),
          u8 (((v4 >>> 49) &&& 0xff)),
          u8 (((v4 >>> 41) &&& 0xff)),
          u8 (((v4 >>> 33) &&& 0xff)),
          u8 (((v4 >>> 25) &&& 0xff)),
          u8 (((v4 >>> 17) &&& 0xff)),
          u8 (((v4 >>> 9) &&& 0xff)),
          u8 (((v4 >>> 1) &&& 0xff)),
          u8 (((((v4) &&& 0x1) <<< 7) ||| ((v5 >>> 54) &&& 0x7f))),
          u8 (((v5 >>> 46) &&& 0xff)),
          u8 (((v5 >>> 38) &&& 0xff)),
          u8 (((v5 >>> 30) &&& 0xff)),
          u8 (((v5 >>> 22) &&& 0xff)),
          u8 (((v5 >>> 14) &&& 0xff)),
          u8 (((v5 >>> 6) &&& 0xff)),
          u8 (((((v5) &&& 0x3f) <<< 2) ||| ((v6 >>> 59) &&& 0x3))),
          u8 (((v6 >>> 51) &&& 0xff)),
          u8 (((v6 >>> 43) &&& 0xff)),
          u8 (((v6 >>> 35) &&& 0xff)),
          u8 (((v6 >>> 27) &&& 0xff)),
          u8 (((v6 >>> 19) &&& 0xff)),
          u8 (((v6 >>> 11) &&& 0xff)),
          u8 (((v6 >>> 3) &&& 0xff)),
          u8 (((((v6) &&& 0x7) <<< 5) ||| ((v7 >>> 56) &&& 0x1f))),
          u8 (((v7 >>> 48) &&& 0xff)),
          u8 (((v7 >>> 40) &&& 0xff)),
          u8 (((v7 >>> 32) &&& 0xff)),
          u8 (((v7 >>> 24) &&& 0xff)),
          u8 (((v7 >>> 16) &&& 0xff)),
          u8 (((v7 >>> 8) &&& 0xff)),
          u8 (((v7) &&& 0xff)) ] := rfl
  obtain ⟨A0, S0, hT0, hA0, hS0⟩ :=
    streamT_decomp 61 [(v0, 61), (v1, 61), (v2, 61), (v3, 61), (v4, 61), (v5, 61), (v6, 61), (v7, 61)] [] [(v1, 61), (v2, 61), (v3, 61), (v4, 61), (v5, 61), (v6, 61), (v7, 61)] v0 61 0 rfl rfl hvs
      (by norm_num [List.map_cons, List.map_nil, List.sum_cons, List.sum_nil])
  obtain ⟨A1, S1, hT1, hA1, hS1⟩ :=
    streamT_decomp 61 [(v0, 61), (v1, 61), (v2, 61), (v3, 61), (v4, 61), (v5, 61), (v6, 61), (v7, 61)] [(v0, 61)] [(v2, 61), (v3, 61), (v4, 61), (v5, 61), (v6, 61), (v7, 61)] v1 61 61 rfl rfl hvs
      (by norm_num [List.map_cons, List.map_nil, List.sum_cons, List.sum_nil])
  obtain ⟨A2, S2, hT2, hA2, hS2⟩ :=
    streamT_decomp 61 [(v0, 61), (v1, 61), (v2, 61), (v3, 61), (v4, 61), (v5, 61), (v6, 61), (v7, 61)] [(v0, 61), (v1, 61)] [(v3, 61), (v4, 61), (v5, 61), (v6, 61), (v7, 61)] v2 61 122 rfl rfl hvs
      (by norm_num [List.map_cons, List.map_nil, List.sum_cons, List.sum_nil])
  obtain ⟨A3, S3, hT3, hA3, hS3⟩ :=
    streamT_decomp 61 [(v0, 61), (v1, 61), (v2, 61), (v3, 61), (v4, 61), (v5, 61), (v6, 61), (v7, 61)] [(v0, 61), (v1, 61), (v2, 61)] [(v4, 61), (v5, 61), (v6, 61), (v7, 61)] v3 61 183 rfl rfl hvs
      (by norm_num [List.map_cons, List.map_nil, List.sum_cons, List.sum_nil])
  obtain ⟨A4, S4, hT4, hA4, hS4⟩ :=
    streamT_decomp 61 [(v0, 61), (v1, 61), (v2, 61), (v3, 61), (v4, 61), (v5, 61), (v6, 61), (v7, 61)] [(v0, 61), (v1, 61), (v2, 61), (v3, 61)] [(v5, 61), (v6, 61), (v7, 61)] v4 61 244 rfl rfl hvs
      (by norm_num [List.map_cons, List.map_nil, List.sum_cons, List.sum_nil])
  obtain ⟨A5, S5, hT5, hA5, hS5⟩ :=
    streamT_decomp 61 [(v0, 61), (v1, 61), (v2, 61), (v3, 61), (v4, 61), (v5, 61), (v6, 61), (v7, 61)] [(v0, 61), (v1, 61), (v2, 61), (v3, 61), (v4, 61)] [(v6, 61), (v7, 61)] v5 61 305 rfl rfl hvs
      (by norm_num [List.map_cons, List.map_nil, List.sum_cons, List.sum_nil])
  obtain ⟨A6, S6, hT6, hA6, hS6⟩ :=
    streamT_decomp 61 [(v0, 61), (v1, 61), (v2, 61), (v3, 61), (v4, 61), (v5, 61), (v6, 61), (v7, 61)] [(v0, 61), (v1, 61), (v2, 61), (v3, 61), (v4, 61), (v5, 61)] [(v7, 61)] v6 61 366 rfl rfl hvs
      (by norm_num [List.map_cons, List.map_nil, List.sum_cons, List.sum_nil])
  obtain ⟨A7, S7, hT7, hA7, hS7⟩ :=
    streamT_decomp 61 [(v0, 61), (v1, 61), (v2, 61), (v3, 61), (v4, 61), (v5, 61), (v6, 61), (v7, 61)] [(v0, 61), (v1, 61), (v2, 61), (v3, 61), (v4, 61), (v5, 61), (v6, 61)] [] v7 61 427 rfl rfl hvs
      (by norm_num [List.map_cons, List.map_nil, List.sum_cons, List.sum_nil])
  obtain ⟨B0, R0, hU0, hB0, hR0⟩ :=
    streamT_decomp2 61 [(v0, 61), (v1, 61), (v2, 61), (v3, 61), (v4, 61), (v5, 61), (v6, 61), (v7, 61)] [] [(v2, 61), (v3, 61), (v4, 61), (v5, 61), (v6, 61), (v7, 61)] v0 v1 61 61 0 rfl rfl hvs
      (by norm_num [List.map_cons, List.map_nil, List.sum_cons, List.sum_nil])
  obtain ⟨B1, R1, hU1, hB1, hR1⟩ :=
    streamT_decomp2 61 [(v0, 61), (v1, 61), (v2, 61), (v3, 61), (v4, 61), (v5, 61), (v6, 61), (v7, 61)] [(v0, 61)] [(v3, 61), (v4, 61), (v5, 61), (v6, 61), (v7, 61)] v1 v2 61 61 61 rfl rfl hvs
      (by norm_num [List.map_cons, List.map_nil, List.sum_cons, List.sum_nil])
  obtain ⟨B2, R2, hU2, hB2, hR2⟩ :=
    streamT_decomp2 61 [(v0, 61), (v1, 61), (v2, 61), (v3, 61), (v4, 61), (v5, 61), (v6, 61), (v7, 61)] [(v0, 61), (v1, 61)] [(v4, 61), (v5, 61), (v6, 61), (v7, 61)] v2 v3 61 61 122 rfl rfl hvs
      (by norm_num [List.map_cons, List.map_nil, List.sum_cons, List.sum_nil])
  obtain ⟨B3, R3, hU3, hB3, hR3⟩ :=
    streamT_decomp2 61 [(v0, 61), (v1, 61), (v2, 61), (v3, 61), (v4, 61), (v5, 61), (v6, 61), (v7, 61)] [(v0, 61), (v1, 61), (v2, 61)] [(v5, 61), (v6, 61), (v7, 61)] v3 v4 61 61 183 rfl rfl hvs
      (by norm_num [List.map_cons, List.map_nil, List.sum_cons, List.sum_nil])
  obtain ⟨B4, R4, hU4, hB4, hR4⟩ :=
    streamT_decomp2 61 [(v0, 61), (v1, 61), (v2, 61), (v3, 61), (v4, 61), (v5, 61), (v6, 61), (v7, 61)] [(v0, 61), (v1, 61), (v2, 61), (v3, 61)] [(v6, 61), (v7, 61)] v4 v5 61 61 244 rfl rfl hvs
      (by norm_num [List.map_cons, List.map_nil, List.sum_cons, List.sum_nil])
  obtain ⟨B5, R5, hU5, hB5, hR5⟩ :=
    streamT_decomp2 61 [(v0, 61), (v1, 61), (v2, 61), (v3, 61), (v4, 61), (v5, 61), (v6, 61), (v7, 61)] [(v0, 61), (v1, 61), (v2, 61), (v3, 61), (v4, 61)] [(v7, 61)] v5 v6 61 61 305 rfl rfl hvs
      (by norm_num [List.map_cons, List.map_nil, List.sum_cons, List.sum_nil])
  obtain ⟨B6, R6, hU6, hB6, hR6⟩ :=
    streamT_decomp2 61 [(v0, 61), (v1, 61), (v2, 61), (v3, 61), (v4, 61), (v5, 61), (v6, 61), (v7, 61)] [(v0, 61), (v1, 61), (v2, 61), (v3, 61), (v4, 61), (v5, 61)] [] v6 v7 61 61 366 rfl rfl hvs
      (by norm_num [List.map_cons, List.map_nil, List.sum_cons, List.sum_nil])
  rw [key, key2]
  simp only [List.cons.injEq]
  refine ⟨?_, ?_, ?_, ?_, ?_, ?_, ?_, ?_, ?_, ?_, ?_, ?_, ?_, ?_, ?_, ?_, ?_, ?_, ?_, ?_, ?_, ?_, ?_, ?_, ?_, ?_, ?_, ?_, ?_, ?_, ?_, ?_, ?_, ?_, ?_, ?_, ?_, ?_, ?_, ?_, ?_, ?_, ?_, ?_, ?_, ?_, ?_, ?_, ?_, ?_, ?_, ?_, ?_, ?_, ?_, ?_, ?_, ?_, ?_, ?_, ?_, trivial⟩
  · rw [hT0]
    exact byteSpec_mid 61 A0 v0 S0 (8 * 61 - 0 - 61) 61 0 53 hA0 hS0
      (by norm_num) (by norm_num)
  · rw [hT0]
    exact byteSpec_mid 61 A0 v0 S0 (8 * 61 - 0 - 61) 61 1 45 hA0 hS0
      (by norm_num) (by norm_num)
  · rw [hT0]
    exact byteSpec_mid 61 A0 v0 S0 (8 * 61 - 0 - 61) 61 2 37 hA0 hS0
      (by norm_num) (by norm_num)
  · rw [hT0]
    exact byteSpec_mid 61 A0 v0 S0 (8 * 61 - 0 - 61) 61 3 29 hA0 hS0
      (by norm_num) (by norm_num)
  · rw [hT0]
    exact byteSpec_mid 61 A0 v0 S0 (8 * 61 - 0 - 61) 61 4 21 hA0 hS0
      (by norm_num) (by norm_num)
  · rw [hT0]
    exact byteSpec_mid 61 A0 v0 S0 (8 * 61 - 0 - 61) 61 5 13 hA0 hS0
      (by norm_num) (by norm_num)
  · rw [hT0]
    exact byteSpec_mid 61 A0 v0 S0 (8 * 61 - 0 - 61) 61 6 5 hA0 hS0
      (by norm_num) (by norm_num)
  · rw [hU0]
    exact byteSpec_bnd 61 B0 v0 v1 R0 (8 * 61 - 0 - 61 - 61) 7 5 3 58 31 7 61 hB0 hv0 hv1 hR0
      (by norm_num) (by norm_num) (by norm_num) (by norm_num) (by norm_num)
  · rw [hT1]
    exact byteSpec_mid 61 A1 v1 S1 (8 * 61 - 61 - 61) 61 8 50 hA1 hS1
      (by norm_num) (by norm_num)
  · rw [hT1]
    exact byteSpec_mid 61 A1 v1 S1 (8 * 61 - 61 - 61) 61 9 42 hA1 hS1
      (by norm_num) (by norm_num)
  · rw [hT1]
    exact byteSpec_mid 61 A1 v1 S1 (8 * 61 - 61 - 61) 61 10 34 hA1 hS1
      (by norm_num) (by norm_num)
  · rw [hT1]
    exact byteSpec_mid 61 A1 v1 S1 (8 * 61 - 61 - 61) 61 11 26 hA1 hS1
      (by norm_num) (by norm_num)
  · rw [hT1]
    exact byteSpec_mid 61 A1 v1 S1 (8 * 61 - 61 - 61) 61 12 18 hA1 hS1
      (by norm_num) (by norm_num)
  · rw [hT1]
    exact byteSpec_mid 61 A1 v1 S1 (8 * 61 - 61 - 61) 61 13 10 hA1 hS1
      (by norm_num) (by norm_num)
  · rw [hT1]
    exact byteSpec_mid 61 A1 v1 S1 (8 * 61 - 61 - 61) 61 14 2 hA1 hS1
      (by norm_num) (by norm_num)
  · rw [hU1]
    exact byteSpec_bnd 61 B1 v1 v2 R1 (8 * 61 - 61 - 61 - 61) 15 2 6 55 3 63 61 hB1 hv1 hv2 hR1
      (by norm_num) (by norm_num) (by norm_num) (by norm_num) (by norm_num)
  · rw [hT2]
    exact byteSpec_mid 61 A2 v2 S2 (8 * 61 - 122 - 61) 61 16 47 hA2 hS2
      (by norm_num) (by norm_num)
  · rw [hT2]
    exact byteSpec_mid 61 A2 v2 S2 (8 * 61 - 122 - 61) 61 17 39 hA2 hS2
      (by norm_num) (by norm_num)
  · rw [hT2]
    exact byteSpec_mid 61 A2 v2 S2 (8 * 61 - 122 - 61) 61 18 31 hA2 hS2
      (by norm_num) (by norm_num)
  · rw [hT2]
    exact byteSpec_mid 61 A2 v2 S2 (8 * 61 - 122 - 61) 61 19 23 hA2 hS2
      (by norm_num) (by norm_num)
  · rw [hT2]
    exact byteSpec_mid 61 A2 v2 S2 (8 * 61 - 122 - 61) 61 20 15 hA2 hS2
      (by norm_num) (by norm_num)
  · rw [hT2]
    exact byteSpec_mid 61 A2 v2 S2 (8 * 61 - 122 - 61) 61 21 7 hA2 hS2
      (by norm_num) (by norm_num)
  · rw [hU2]
    exact byteSpec_bnd 61 B2 v2 v3 R2 (8 * 61 - 122 - 61 - 61) 22 7 1 60 127 1 61 hB2 hv2 hv3 hR2
      (by norm_num) (by norm_num) (by norm_num) (by norm_num) (by norm_num)
  · rw [hT3]
    exact byteSpec_mid 61 A3 v3 S3 (8 * 61 - 183 - 61) 61 23 52 hA3 hS3
      (by norm_num) (by norm_num)
  · rw [hT3]
    exact byteSpec_mid 61 A3 v3 S3 (8 * 61 - 183 - 61) 61 24 44 hA3 hS3
      (by norm_num) (by norm_num)
  · rw [hT3]
    exact byteSpec_mid 61 A3 v3 S3 (8 * 61 - 183 - 61) 61 25 36 hA3 hS3
      (by norm_num) (by norm_num)
  · rw [hT3]
    exact byteSpec_mid 61 A3 v3 S3 (8 * 61 - 183 - 61) 61 26 28 hA3 hS3
      (by norm_num) (by norm_num)
  · rw [hT3]
    exact byteSpec_mid 61 A3 v3 S3 (8 * 61 - 183 - 61) 61 27 20 hA3 hS3
      (by norm_num) (by norm_num)
  · rw [hT3]
    exact byteSpec_mid 61 A3 v3 S3 (8 * 61 - 183 - 61) 61 28 12 hA3 hS3
      (by norm_num) (by norm_num)
  · rw [hT3]
    exact byteSpec_mid 61 A3 v3 S3 (8 * 61 - 183 - 61) 61 29 4 hA3 hS3
      (by norm_num) (by norm_num)
  · rw [hU3]
    exact byteSpec_bnd 61 B3 v3 v4 R3 (8 * 61 - 183 - 61 - 61) 30 4 4 57 15 15 61 hB3 hv3 hv4 hR3
      (by norm_num) (by norm_num) (by norm_num) (by norm_num) (by norm_num)
  · rw [hT4]
    exact byteSpec_mid 61 A4 v4 S4 (8 * 61 - 244 - 61) 61 31 49 hA4 hS4
      (by norm_num) (by norm_num)
  · rw [hT4]
    exact byteSpec_mid 61 A4 v4 S4 (8 * 61 - 244 - 61) 61 32 41 hA4 hS4
      (by norm_num) (by norm_num)
  · rw [hT4]
    exact byteSpec_mid 61 A4 v4 S4 (8 * 61 - 244 - 61) 61 33 33 hA4 hS4
      (by norm_num) (by norm_num)
  · rw [hT4]
    exact byteSpec_mid 61 A4 v4 S4 (8 * 61 - 244 - 61) 61 34 25 hA4 hS4
      (by norm_num) (by norm_num)
  · rw [hT4]
    exact byteSpec_mid 61 A4 v4 S4 (8 * 61 - 244 - 61) 61 35 17 hA4 hS4
      (by norm_num) (by norm_num)
  · rw [hT4]
    exact byteSpec_mid 61 A4 v4 S4 (8 * 61 - 244 - 61) 61 36 9 hA4 hS4
      (by norm_num) (by norm_num)
  · rw [hT4]
    exact byteSpec_mid 61 A4 v4 S4 (8 * 61 - 244 - 61) 61 37 1 hA4 hS4
      (by norm_num) (by norm_num)
  · rw [hU4]
    exact byteSpec_bnd 61 B4 v4 v5 R4 (8 * 61 - 244 - 61 - 61) 38 1 7 54 1 127 61 hB4 hv4 hv5 hR4
      (by norm_num) (by norm_num) (by norm_num) (by norm_num) (by norm_num)
  · rw [hT5]
    exact byteSpec_mid 61 A5 v5 S5 (8 * 61 - 305 - 61) 61 39 46 hA5 hS5
      (by norm_num) (by norm_num)
  · rw [hT5]
    exact byteSpec_mid 61 A5 v5 S5 (8 * 61 - 305 - 61) 61 40 38 hA5 hS5
      (by norm_num) (by norm_num)
  · rw [hT5]
    exact byteSpec_mid 61 A5 v5 S5 (8 * 61 - 305 - 61) 61 41 30 hA5 hS5
      (by norm_num) (by norm_num)
  · rw [hT5]
    exact byteSpec_mid 61 A5 v5 S5 (8 * 61 - 305 - 61) 61 42 22 hA5 hS5
      (by norm_num) (by norm_num)
  · rw [hT5]
    exact byteSpec_mid 61 A5 v5 S5 (8 * 61 - 305 - 61) 61 43 14 hA5 hS5
      (by norm_num) (by norm_num)
  · rw [hT5]
    exact byteSpec_mid 61 A5 v5 S5 (8 * 61 - 305 - 61) 61 44 6 hA5 hS5
      (by norm_num) (by norm_num)
  · rw [hU5]
    exact byteSpec_bnd 61 B5 v5 v6 R5 (8 * 61 - 305 - 61 - 61) 45 6 2 59 63 3 61 hB5 hv5 hv6 hR5
      (by norm_num) (by norm_num) (by norm_num) (by norm_num) (by norm_num)
  · rw [hT6]
    exact byteSpec_mid 61 A6 v6 S6 (8 * 61 - 366 - 61) 61 46 51 hA6 hS6
      (by norm_num) (by norm_num)
  · rw [hT6]
    exact byteSpec_mid 61 A6 v6 S6 (8 * 61 - 366 - 61) 61 47 43 hA6 hS6
      (by norm_num) (by norm_num)
  · rw [hT6]
    exact byteSpec_mid 61 A6 v6 S6 (8 * 61 - 366 - 61) 61 48 35 hA6 hS6
      (by norm_num) (by norm_num)
  · rw [hT6]
    exact byteSpec_mid 61 A6 v6 S6 (8 * 61 - 366 - 61) 61 49 27 hA6 hS6
      (by norm_num) (by norm_num)
  · rw [hT6]
    exact byteSpec_mid 61 A6 v6 S6 (8 * 61 - 366 - 61) 61 50 19 hA6 hS6
      (by norm_num) (by norm_num)
  · rw [hT6]
    exact byteSpec_mid 61 A6 v6 S6 (8 * 61 - 366 - 61) 61 51 11 hA6 hS6
      (by norm_num) (by norm_num)
  · rw [hT6]
    exact byteSpec_mid 61 A6 v6 S6 (8 * 61 - 366 - 61) 61 52 3 hA6 hS6
      (by norm_num) (by norm_num)
  · rw [hU6]
    exact byteSpec_bnd 61 B6 v6 v7 R6 (8 * 61 - 366 - 61 - 61) 53 3 5 56 7 31 61 hB6 hv6 hv7 hR6
      (by norm_num) (by norm_num) (by norm_num) (by norm_num) (by norm_num)
  · rw [hT7]
    exact byteSpec_mid 61 A7 v7 S7 (8 * 61 - 427 - 61) 61 54 48 hA7 hS7
      (by norm_num) (by norm_num)
  · rw [hT7]
    exact byteSpec_mid 61 A7 v7 S7 (8 * 61 - 427 - 61) 61 55 40 hA7 hS7
      (by norm_num) (by norm_num)
  · rw [hT7]
    exact byteSpec_mid 61 A7 v7 S7 (8 * 61 - 427 - 61) 61 56 32 hA7 hS7
      (by norm_num) (by norm_num)
  · rw [hT7]
    exact byteSpec_mid 61 A7 v7 S7 (8 * 61 - 427 - 61) 61 57 24 hA7 hS7
      (by norm_num) (by norm_num)
  · rw [hT7]
    exact byteSpec_mid 61 A7 v7 S7 (8 * 61 - 427 - 61) 61 58 16 hA7 hS7
      (by norm_num) (by norm_num)
  · rw [hT7]
    exact byteSpec_mid 61 A7 v7 S7 (8 * 61 - 427 - 61) 61 59 8 hA7 hS7
      (by norm_num) (by norm_num)
  · rw [hT7]
    exact byteSpec_mid0 61 A7 v7 S7 (8 * 61 - 427 - 61) 61 60 hA7 hS7
      (by norm_num) (by norm_num)

set_option maxRecDepth 16000 in
set_option maxHeartbeats 1000000 in
theorem c5_pack_eq_62 (v0 v1 v2 v3 v4 v5 v6 v7 : Nat) (hv0 : v0 < 2 ^ 62) (hv1 : v1 < 2 ^ 62) (hv2 : v2 < 2 ^ 62) (hv3 : v3 < 2 ^ 62) (hv4 : v4 < 2 ^ 62) (hv5 : v5 < 2 ^ 62) (hv6 : v6 < 2 ^ 62) (hv7 : v7 < 2 ^ 62) :
    (packSeq (BitPacker.new (List.replicate 62 0)) [(v0, 62), (v1, 62), (v2, 62), (v3, 62), (v4, 62), (v5, 62), (v6, 62), (v7, 62)]).bytes
      = pack_bits_62 v0 v1 v2 v3 v4 v5 v6 v7 := by
  have hvs : ∀ p ∈ ([(v0, 62), (v1, 62), (v2, 62), (v3, 62), (v4, 62), (v5, 62), (v6, 62), (v7, 62)] : List (Nat × Nat)), p.1 < 2 ^ p.2 := by
    intro p hp
    simp only [List.mem_cons, List.not_mem_nil, or_false] at hp
    rcases hp with rfl | rfl | rfl | rfl | rfl | rfl | rfl | rfl
    exacts [hv0, hv1, hv2, hv3, hv4, hv5, hv6, hv7]
  obtain ⟨-, -, -, ⟨hlen, hbytes⟩, -, -⟩ :=
    packSeq_inv 62 [(v0, 62), (v1, 62), (v2, 62), (v3, 62), (v4, 62), (v5, 62), (v6, 62), (v7, 62)] 0 0 _ hvs
      (by norm_num [List.map_cons, List.map_nil, List.sum_cons, List.sum_nil]) (packInv_init 62)
  have key : (packSeq (BitPacker.new (List.replicate 62 0)) [(v0, 62), (v1, 62), (v2, 62), (v3, 62), (v4, 62), (v5, 62), (v6, 62), (v7, 62)]).bytes
      = [ ByteSpec 62 (streamT 62 [(v0, 62), (v1, 62), (v2, 62), (v3, 62), (v4, 62), (v5, 62), (v6, 62), (v7, 62)] 0 0) 0,
          ByteSpec 62 (streamT 62 [(v0, 62), (v1, 62), (v2, 62), (v3, 62), (v4, 62), (v5, 62), (v6, 62), (v7, 62)] 0 0) 1,
          ByteSpec 62 (streamT 62 [(v0, 62), (v1, 62), (v2, 62), (v3, 62), (v4, 62), (v5, 62), (v6, 62), (v7, 62)] 0 0) 2,
          ByteSpec 62 (streamT 62 [(v0, 62), (v1, 62), (v2, 62), (v3, 62), (v4, 62), (v5, 62), (v6, 62), (v7, 62)] 0 0) 3,
          ByteSpec 62 (streamT 62 [(v0, 62), (v1, 62), (v2, 62), (v3, 62), (v4, 62), (v5, 62), (v6, 62), (v7, 62)] 0 0) 4,
          ByteSpec 62 (streamT 62 [(v0, 62), (v1, 62), (v2, 62), (v3, 62), (v4, 62), (v5, 62), (v6, 62), (v7, 62)] 0 0) 5,
          ByteSpec 62 (streamT 62 [(v0, 62), (v1, 62), (v2, 62), (v3, 62), (v4, 62), (v5, 62), (v6, 62), (v7, 62)] 0 0) 6,
          ByteSpec 62 (streamT 62 [(v0, 62), (v1, 62), (v2, 62), (v3, 62), (v4, 62), (v5, 62), (v6, 62), (v7, 62)] 0 0) 7,
          ByteSpec 62 (streamT 62 [(v0, 62), (v1, 62), (v2, 62), (v3, 62), (v4, 62), (v5, 62), (v6, 62), (v7, 62)] 0 0) 8,
          ByteSpec 62 (streamT 62 [(v0, 62), (v1, 62), (v2, 62), (v3, 62), (v4, 62), (v5, 62), (v6, 62), (v7, 62)] 0 0) 9,
          ByteSpec 62 (streamT 62 [(v0, 62), (v1, 62), (v2, 62), (v3, 62), (v4, 62), (v5, 62), (v6, 62), (v7, 62)] 0 0) 10,
          ByteSpec 62 (streamT 62 [(v0, 62), (v1, 62), (v2, 62), (v3, 62), (v4, 62), (v5, 62), (v6, 62), (v7, 62)] 0 0) 11,
          ByteSpec 62 (streamT 62 [(v0, 62), (v1, 62), (v2, 62), (v3, 62), (v4, 62), (v5, 62), (v6, 62), (v7, 62)] 0 0) 12,
          ByteSpec 62 (streamT 62 [(v0, 62), (v1, 62), (v2, 62), (v3, 62), (v4, 62), (v5, 62), (v6, 62), (v7, 62)] 0 0) 13,
          ByteSpec 62 (streamT 62 [(v0, 62), (v1, 62), (v2, 62), (v3, 62), (v4, 62), (v5, 62), (v6, 62), (v7, 62)] 0 0) 14,
          ByteSpec 62 (streamT 62 [(v0, 62), (v1, 62), (v2, 62), (v3, 62), (v4, 62), (v5, 62), (v6, 62), (v7, 62)] 0 0) 15,
          ByteSpec 62 (streamT 62 [(v0, 62), (v1, 62), (v2, 62), (v3, 62), (v4, 62), (v5, 62), (v6, 62), (v7, 62)] 0 0) 16,
          ByteSpec 62 (streamT 62 [(v0, 62), (v1, 62), (v2, 62), (v3, 62), (v4, 62), (v5, 62), (v6, 62), (v7, 62)] 0 0) 17,
          ByteSpec 62 (streamT 62 [(v0, 62), (v1, 62), (v2, 62), (v3, 62), (v4, 62), (v5, 62), (v6, 62), (v7, 62)] 0 0) 18,
          ByteSpec 62 (streamT 62 [(v0, 62), (v1, 62), (v2, 62), (v3, 62), (v4, 62), (v5, 62), (v6, 62), (v7, 62)] 0 0) 19,
          ByteSpec 62 (streamT 62 [(v0, 62), (v1, 62), (v2, 62), (v3, 62), (v4, 62), (v5, 62), (v6, 62), (v7, 62)] 0 0) 20,
          ByteSpec 62 (streamT 62 [(v0, 62), (v1, 62), (v2, 62), (v3, 62), (v4, 62), (v5, 62), (v6, 62), (v7, 62)] 0 0) 21,
          ByteSpec 62 (streamT 62 [(v0, 62), (v1, 62), (v2, 62), (v3, 62), (v4, 62), (v5, 62), (v6, 62), (v7, 62)] 0 0) 22,
          ByteSpec 62 (streamT 62 [(v0, 62), (v1, 62), (v2, 62), (v3, 62), (v4, 62), (v5, 62), (v6, 62), (v7, 62)] 0 0) 23,
          ByteSpec 62 (streamT 62 [(v0, 62), (v1, 62), (v2, 62), (v3, 62), (v4, 62), (v5, 62), (v6, 62), (v7, 62)] 0 0) 24,
          ByteSpec 62 (streamT 62 [(v0, 62), (v1, 62), (v2, 62), (v3, 62), (v4, 62), (v5, 62), (v6, 62), (v7, 62)] 0 0) 25,
          ByteSpec 62 (streamT 62 [(v0, 62), (v1, 62), (v2, 62), (v3, 62), (v4, 62), (v5, 62), (v6, 62), (v7, 62)] 0 0) 26,
          ByteSpec 62 (streamT 62 [(v0, 62), (v1, 62), (v2, 62), (v3, 62), (v4, 62), (v5, 62), (v6, 62), (v7, 62)] 0 0) 27,
          ByteSpec 62 (streamT 62 [(v0, 62), (v1, 62), (v2, 62), (v3, 62), (v4, 62), (v5, 62), (v6, 62), (v7, 62)] 0 0) 28,
          ByteSpec 62 (streamT 62 [(v0, 62), (v1, 62), (v2, 62), (v3, 62), (v4, 62), (v5, 62), (v6, 62), (v7, 62)] 0 0) 29,
          ByteSpec 62 (streamT 62 [(v0, 62), (v1, 62), (v2, 62), (v3, 62), (v4, 62), (v5, 62), (v6, 62), (v7, 62)] 0 0) 30,
          ByteSpec 62 (streamT 62 [(v0, 62), (v1, 62), (v2, 62), (v3, 62), (v4, 62), (v5, 62), (v6, 62), (v7, 62)] 0 0) 31,
          ByteSpec 62 (streamT 62 [(v0, 62), (v1, 62), (v2, 62), (v3, 62), (v4, 62), (v5, 62), (v6, 62), (v7, 62)] 0 0) 32,
          ByteSpec 62 (streamT 62 [(v0, 62), (v1, 62), (v2, 62), (v3, 62), (v4, 62), (v5, 62), (v6, 62), (v7, 62)] 0 0) 33,
          ByteSpec 62 (streamT 62 [(v0, 62), (v1, 62), (v2, 62), (v3, 62), (v4, 62), (v5, 62), (v6, 62), (v7, 62)] 0 0) 34,
          ByteSpec 62 (streamT 62 [(v0, 62), (v1, 62), (v2, 62), (v3, 62), (v4, 62), (v5, 62), (v6, 62), (v7, 62)] 0 0) 35,
          ByteSpec 62 (streamT 62 [(v0, 62), (v1, 62), (v2, 62), (v3, 62), (v4, 62), (v5, 62), (v6, 62), (v7, 62)] 0 0) 36,
          ByteSpec 62 (streamT 62 [(v0, 62), (v1, 62), (v2, 62), (v3, 62), (v4, 62), (v5, 62), (v6, 62), (v7, 62)] 0 0) 37,
          ByteSpec 62 (streamT 62 [(v0, 62), (v1, 62), (v2, 62), (v3, 62), (v4, 62), (v5, 62), (v6, 62), (v7, 62)] 0 0) 38,
          ByteSpec 62 (streamT 62 [(v0, 62), (v1, 62), (v2, 62), (v3, 62), (v4, 62), (v5, 62), (v6, 62), (v7, 62)] 0 0) 39,
          ByteSpec 62 (streamT 62 [(v0, 62), (v1, 62), (v2, 62), (v3, 62), (v4, 62), (v5, 62), (v6, 62), (v7, 62)] 0 0) 40,
          ByteSpec 62 (streamT 62 [(v0, 62), (v1, 62), (v2, 62), (v3, 62), (v4, 62), (v5, 62), (v6, 62), (v7, 62)] 0 0) 41,
          ByteSpec 62 (streamT 62 [(v0, 62), (v1, 62), (v2, 62), (v3, 62), (v4, 62), (v5, 62), (v6, 62), (v7, 62)] 0 0) 42,
          ByteSpec 62 (streamT 62 [(v0, 62), (v1, 62), (v2, 62), (v3, 62), (v4, 62), (v5, 62), (v6, 62), (v7, 62)] 0 0) 43,
          ByteSpec 62 (streamT 62 [(v0, 62), (v1, 62), (v2, 62), (v3, 62), (v4, 62), (v5, 62), (v6, 62), (v7, 62)] 0 0) 44,
          ByteSpec 62 (streamT 62 [(v0, 62), (v1, 62), (v2, 62), (v3, 62), (v4, 62), (v5, 62), (v6, 62), (v7, 62)] 0 0) 45,
          ByteSpec 62 (streamT 62 [(v0, 62), (v1, 62), (v2, 62), (v3, 62), (v4, 62), (v5, 62), (v6, 62), (v7, 62)] 0 0) 46,
          ByteSpec 62 (streamT 62 [(v0, 62), (v1, 62), (v2, 62), (v3, 62), (v4, 62), (v5, 62), (v6, 62), (v7, 62)] 0 0) 47,
          ByteSpec 62 (streamT 62 [(v0, 62), (v1, 62), (v2, 62), (v3, 62), (v4, 62), (v5, 62), (v6, 62), (v7, 62)] 0 0) 48,
          ByteSpec 62 (streamT 62 [(v0, 62), (v1, 62), (v2, 62), (v3, 62), (v4, 62), (v5, 62), (v6, 62), (v7, 62)] 0 0) 49,
          ByteSpec 62 (streamT 62 [(v0, 62), (v1, 62), (v2, 62), (v3, 62), (v4, 62), (v5, 62), (v6, 62), (v7, 62)] 0 0) 50,
          ByteSpec 62 (streamT 62 [(v0, 62), (v1, 62), (v2, 62), (v3, 62), (v4, 62), (v5, 62), (v6, 62), (v7, 62)] 0 0) 51,
          ByteSpec 62 (streamT 62 [(v0, 62), (v1, 62), (v2, 62), (v3, 62), (v4, 62), (v5, 62), (v6, 62), (v7, 62)] 0 0) 52,
          ByteSpec 62 (streamT 62 [(v0, 62), (v1, 62), (v2, 62), (v3, 62), (v4, 62), (v5, 62), (v6, 62), (v7, 62)] 0 0) 53,
          ByteSpec 62 (streamT 62 [(v0, 62), (v1, 62), (v2, 62), (v3, 62), (v4, 62), (v5, 62), (v6, 62), (v7, 62)] 0 0) 54,
          ByteSpec 62 (streamT 62 [(v0, 62), (v1, 62), (v2, 62), (v3, 62), (v4, 62), (v5, 62), (v6, 62), (v7, 62)] 0 0) 55,
          ByteSpec 62 (streamT 62 [(v0, 62), (v1, 62), (v2, 62), (v3, 62), (v4, 62), (v5, 62), (v6, 62), (v7, 62)] 0 0) 56,
          ByteSpec 62 (streamT 62 [(v0, 62), (v1, 62), (v2, 62), (v3, 62), (v4, 62), (v5, 62), (v6, 62), (v7, 62)] 0 0) 57,
          ByteSpec 62 (streamT 62 [(v0, 62), (v1, 62), (v2, 62), (v3, 62), (v4, 62), (v5, 62), (v6, 62), (v7, 62)] 0 0) 58,
          ByteSpec 62 (streamT 62 [(v0, 62), (v1, 62), (v2, 62), (v3, 62), (v4, 62), (v5, 62), (v6, 62), (v7, 62)] 0 0) 59,
          ByteSpec 62 (streamT 62 [(v0, 62), (v1, 62), (v2, 62), (v3, 62), (v4, 62), (v5, 62), (v6, 62), (v7, 62)] 0 0) 60,
          ByteSpec 62 (streamT 62 [(v0, 62), (v1, 62), (v2, 62), (v3, 62), (v4, 62), (v5, 62), (v6, 62), (v7, 62)] 0 0) 61 ] :=
    (list_eq_map_range_of_getD _ _ 62 hlen hbytes).trans (by rfl)
  have key2 : pack_bits_62 v0 v1 v2 v3 v4 v5 v6 v7
      = [ u8 (((v0 >>> 54) &&& 0xff)),
          u8 (((v0 >>> 46) &&& 0xff)),
          u8 (((v0 >>> 38) &&& 0xff)),
          u8 (((v0 >>> 30) &&& 0xff)),
          u8 (((v0 >>> 22) &&& 0xff)),
          u8 (((v0 >>> 14) &&& 0xff)),
          u8 (((v0 >>> 6) &&& 0xff)),
          u8 (((((v0) &&& 0x3f) <<< 2) ||| ((v1 >>> 60) &&& 0x3))),
          u8 (((v1 >>> 52) &&& 0xff)),
          u8 (((v1 >>> 44) &&& 0xff)),
          u8 (((v1 >>> 36) &&& 0xff)),
          u8 (((v1 >>> 28) &&& 0xff)),
          u8 (((v1 >>> 20) &&& 0xff)),
          u8 (((v1 >>> 12) &&& 0xff)),
          u8 (((v1 >>> 4) &&& 0xff)),
          u8 (((((v1) &&& 0xf) <<< 4) ||| ((v2 >>> 58) &&& 0xf))),
          u8 (((v2 >>> 50) &&& 0xff)),
          u8 (((v2 >>> 42) &&& 0xff)),
          u8 (((v2 >>> 34) &&& 0xff)),
          u8 (((v2 >>> 26) &&& 0xff)),
          u8 (((v2 >>> 18) &&& 0xff)),
          u8 (((v2 >>> 10) &&& 0xff)),
          u8 (((v2 >>> 2) &&& 0xff)),
          u8 (((((v2) &&& 0x3) <<< 6) ||| ((v3 >>> 56) &&& 0x3f))),
          u8 (((v3 >>> 48) &&& 0xff)),
          u8 (((v3 >>> 40) &&& 0xff)),
          u8 (((v3 >>> 32) &&& 0xff)),
          u8 (((v3 >>> 24) &&& 0xff)),
          u8 (((v3 >>> 16) &&& 0xff)),
          u8 (((v3 >>> 8) &&& 0xff)),
          u8 (((v3) &&& 0xff)),
          u8 (((v4 >>> 54) &&& 0xff)),
          u8 (((v4 >>> 46) &&& 0xff)),
          u8 (((v4 >>> 38) &&& 0xff)),
          u8 (((v4 >>> 30) &&& 0xff)),
          u8 (((v4 >>> 22) &&& 0xff)),
          u8 (((v4 >>> 14) &&& 0xff)),
          u8 (((v4 >>> 6) &&& 0xff)),
          u8 (((((v4) &&& 0x3f) <<< 2) ||| ((v5 >>> 60) &&& 0x3))),
          u8 (((v5 >>> 52) &&& 0xff)),
          u8 (((v5 >>> 44) &&& 0xff)),
          u8 (((v5 >>> 36) &&& 0xff)),
          u8 (((v5 >>> 28) &&& 0xff)),
          u8 (((v5 >>> 20) &&& 0xff)),
          u8 (((v5 >>> 12) &&& 0xff)),
          u8 (((v5 >>> 4) &&& 0xff)),
          u8 (((((v5) &&& 0xf) <<< 4) ||| ((v6 >>> 58) &&& 0xf))),
          u8 (((v6 >>> 50) &&& 0xff)),
          u8 (((v6 >>> 42) &&& 0xff)),
          u8 (((v6 >>> 34) &&& 0xff)),
          u8 (((v6 >>> 26) &&& 0xff)),
          u8 (((v6 >>> 18) &&& 0xff)),
          u8 (((v6 >>> 10) &&& 0xff)),
          u8 (((v6 >>> 2) &&& 0xff)),
          u8 (((((v6) &&& 0x3) <<< 6) ||| ((v7 >>> 56) &&& 0x3f))),
          u8 (((v7 >>> 48) &&& 0xff)),
          u8 (((v7 >>> 40) &&& 0xff)),
          u8 (((v7 >>> 32) &&& 0xff)),
          u8 (((v7 >>> 24) &&& 0xff)),
          u8 (((v7 >>> 16) &&& 0xff)),
          u8 (((v7 >>> 8) &&& 0xff)),
          u8 (((v7) &&& 0xff)) ] := rfl
  obtain ⟨A0, S0, hT0, hA0, hS0⟩ :=
    streamT_decomp 62 [(v0, 62), (v1, 62), (v2, 62), (v3, 62), (v4, 62), (v5, 62), (v6, 62), (v7, 62)] [] [(v1, 62), (v2, 62), (v3, 62), (v4, 62), (v5, 62), (v6, 62), (v7, 62)] v0 62 0 rfl rfl hvs
      (by norm_num [List.map_cons, List.map_nil, List.sum_cons, List.sum_nil])
  obtain ⟨A1, S1, hT1, hA1, hS1⟩ :=
    streamT_decomp 62 [(v0, 62), (v1, 62), (v2, 62), (v3, 62), (v4, 62), (v5, 62), (v6, 62), (v7, 62)] [(v0, 62)] [(v2, 62), (v3, 62), (v4, 62), (v5, 62), (v6, 62), (v7, 62)] v1 62 62 rfl rfl hvs
      (by norm_num [List.map_cons, List.map_nil, List.sum_cons, List.sum_nil])
  obtain ⟨A2, S2, hT2, hA2, hS2⟩ :=
    streamT_decomp 62 [(v0, 62), (v1, 62), (v2, 62), (v3, 62), (v4, 62), (v5, 62), (v6, 62), (v7, 62)] [(v0, 62), (v1, 62)] [(v3, 62), (v4, 62), (v5, 62), (v6, 62), (v7, 62)] v2 62 124 rfl rfl hvs
      (by norm_num [List.map_cons, List.map_nil, List.sum_cons, List.sum_nil])
  obtain ⟨A3, S3, hT3, hA3, hS3⟩ :=
    streamT_decomp 62 [(v0, 62), (v1, 62), (v2, 62), (v3, 62), (v4, 62), (v5, 62), (v6, 62), (v7, 62)] [(v0, 62), (v1, 62), (v2, 62)] [(v4, 62), (v5, 62), (v6, 62), (v7, 62)] v3 62 186 rfl rfl hvs
      (by norm_num [List.map_cons, List.map_nil, List.sum_cons, List.sum_nil])
  obtain ⟨A4, S4, hT4, hA4, hS4⟩ :=
    streamT_decomp 62 [(v0, 62), (v1, 62), (v2, 62), (v3, 62), (v4, 62), (v5, 62), (v6, 62), (v7, 62)] [(v0, 62), (v1, 62), (v2, 62), (v3, 62)] [(v5, 62), (v6, 62), (v7, 62)] v4 62 248 rfl rfl hvs
      (by norm_num [List.map_cons, List.map_nil, List.sum_cons, List.sum_nil])
  obtain ⟨A5, S5, hT5, hA5, hS5⟩ :=
    streamT_decomp 62 [(v0, 62), (v1, 62), (v2, 62), (v3, 62), (v4, 62), (v5, 62), (v6, 62), (v7, 62)] [(v0, 62), (v1, 62), (v2, 62), (v3, 62), (v4, 62)] [(v6, 62), (v7, 62)] v5 62 310 rfl rfl hvs
      (by norm_num [List.map_cons, List.map_nil, List.sum_cons, List.sum_nil])
  obtain ⟨A6, S6, hT6, hA6, hS6⟩ :=
    streamT_decomp 62 [(v0, 62), (v1, 62), (v2, 62), (v3, 62), (v4, 62), (v5, 62), (v6, 62), (v7, 62)] [(v0, 62), (v1, 62), (v2, 62), (v3, 62), (v4, 62), (v5, 62)] [(v7, 62)] v6 62 372 rfl rfl hvs
      (by norm_num [List.map_cons, List.map_nil, List.sum_cons, List.sum_nil])
  obtain ⟨A7, S7, hT7, hA7, hS7⟩ :=
    streamT_decomp 62 [(v0, 62), (v1, 62), (v2, 62), (v3, 62), (v4, 62), (v5, 62), (v6, 62), (v7, 62)] [(v0, 62), (v1, 62), (v2, 62), (v3, 62), (v4, 62), (v5, 62), (v6, 62)] [] v7 62 434 rfl rfl hvs
      (by norm_num [List.map_cons, List.map_nil, List.sum_cons, List.sum_nil])
  obtain ⟨B0, R0, hU0, hB0, hR0⟩ :=
    streamT_decomp2 62 [(v0, 62), (v1, 62), (v2, 62), (v3, 62), (v4, 62), (v5, 62), (v6, 62), (v7, 62)] [] [(v2, 62), (v3, 62), (v4, 62), (v5, 62), (v6, 62), (v7, 62)] v0 v1 62 62 0 rfl rfl hvs
      (by norm_num [List.map_cons, List.map_nil, List.sum_cons, List.sum_nil])
  obtain ⟨B1, R1, hU1, hB1, hR1⟩ :=
    streamT_decomp2 62 [(v0, 62), (v1, 62), (v2, 62), (v3, 62), (v4, 62), (v5, 62), (v6, 62), (v7, 62)] [(v0, 62)] [(v3, 62), (v4, 62), (v5, 62), (v6, 62), (v7, 62)] v1 v2 62 62 62 rfl rfl hvs
      (by norm_num [List.map_cons, List.map_nil, List.sum_cons, List.sum_nil])
  obtain ⟨B2, R2, hU2, hB2, hR2⟩ :=
    streamT_decomp2 62 [(v0, 62), (v1, 62), (v2, 62), (v3, 62), (v4, 62), (v5, 62), (v6, 62), (v7, 62)] [(v0, 62), (v1, 62)] [(v4, 62), (v5, 62), (v6, 62), (v7, 62)] v2 v3 62 62 124 rfl rfl hvs
      (by norm_num [List.map_cons, List.map_nil, List.sum_cons, List.sum_nil])
  obtain ⟨B4, R4, hU4, hB4, hR4⟩ :=
    streamT_decomp2 62 [(v0, 62), (v1, 62), (v2, 62), (v3, 62), (v4, 62), (v5, 62), (v6, 62), (v7, 62)] [(v0, 62), (v1, 62), (v2, 62), (v3, 62)] [(v6, 62), (v7, 62)] v4 v5 62 62 248 rfl rfl hvs
      (by norm_num [List.map_cons, List.map_nil, List.sum_cons, List.sum_nil])
  obtain ⟨B5, R5, hU5, hB5, hR5⟩ :=
    streamT_decomp2 62 [(v0, 62), (v1, 62), (v2, 62), (v3, 62), (v4, 62), (v5, 62), (v6, 62), (v7, 62)] [(v0, 62), (v1, 62), (v2, 62), (v3, 62), (v4, 62)] [(v7, 62)] v5 v6 62 62 310 rfl rfl hvs
      (by norm_num [List.map_cons, List.map_nil, List.sum_cons, List.sum_nil])
  obtain ⟨B6, R6, hU6, hB6, hR6⟩ :=
    streamT_decomp2 62 [(v0, 62), (v1, 62), (v2, 62), (v3, 62), (v4, 62), (v5, 62), (v6, 62), (v7, 62)] [(v0, 62), (v1, 62), (v2, 62), (v3, 62), (v4, 62), (v5, 62)] [] v6 v7 62 62 372 rfl rfl hvs
      (by norm_num [List.map_cons, List.map_nil, List.sum_cons, List.sum_nil])
  rw [key, key2]
  simp only [List.cons.injEq]
  refine ⟨?_, ?_, ?_, ?_, ?_, ?_, ?_, ?_, ?_, ?_, ?_, ?_, ?_, ?_, ?_, ?_, ?_, ?_, ?_, ?_, ?_, ?_, ?_, ?_, ?_, ?_, ?_, ?_, ?_, ?_, ?_, ?_, ?_, ?_, ?_, ?_, ?_, ?_, ?_, ?_, ?_, ?_, ?_, ?_, ?_, ?_, ?_, ?_, ?_, ?_, ?_, ?_, ?_, ?_, ?_, ?_, ?_, ?_, ?_, ?_, ?_, ?_, trivial⟩
  · rw [hT0]
    exact byteSpec_mid 62 A0 v0 S0 (8 * 62 - 0 - 62) 62 0 54 hA0 hS0
      (by norm_num) (by norm_num)
  · rw [hT0]
    exact byteSpec_mid 62 A0 v0 S0 (8 * 62 - 0 - 62) 62 1 46 hA0 hS0
      (by norm_num) (by norm_num)
  · rw [hT0]
    exact byteSpec_mid 62 A0 v0 S0 (8 * 62 - 0 - 62) 62 2 38 hA0 hS0
      (by norm_num) (by norm_num)
  · rw [hT0]
    exact byteSpec_mid 62 A0 v0 S0 (8 * 62 - 0 - 62) 62 3 30 hA0 hS0
      (by norm_num) (by norm_num)
  · rw [hT0]
    exact byteSpec_mid 62 A0 v0 S0 (8 * 62 - 0 - 62) 62 4 22 hA0 hS0
      (by norm_num) (by norm_num)
  · rw [hT0]
    exact byteSpec_mid 62 A0 v0 S0 (8 * 62 - 0 - 62) 62 5 14 hA0 hS0
      (by norm_num) (by norm_num)
  · rw [hT0]
    exact byteSpec_mid 62 A0 v0 S0 (8 * 62 - 0 - 62) 62 6 6 hA0 hS0
      (by norm_num) (by norm_num)
  · rw [hU0]
    exact byteSpec_bnd 62 B0 v0 v1 R0 (8 * 62 - 0 - 62 - 62) 7 6 2 60 63 3 62 hB0 hv0 hv1 hR0
      (by norm_num) (by norm_num) (by norm_num) (by norm_num) (by norm_num)
  · rw [hT1]
    exact byteSpec_mid 62 A1 v1 S1 (8 * 62 - 62 - 62) 62 8 52 hA1 hS1
      (by norm_num) (by norm_num)
  · rw [hT1]
    exact byteSpec_mid 62 A1 v1 S1 (8 * 62 - 62 - 62) 62 9 44 hA1 hS1
      (by norm_num) (by norm_num)
  · rw [hT1]
    exact byteSpec_mid 62 A1 v1 S1 (8 * 62 - 62 - 62) 62 10 36 hA1 hS1
      (by norm_num) (by norm_num)
  · rw [hT1]
    exact byteSpec_mid 62 A1 v1 S1 (8 * 62 - 62 - 62) 62 11 28 hA1 hS1
      (by norm_num) (by norm_num)
  · rw [hT1]
    exact byteSpec_mid 62 A1 v1 S1 (8 * 62 - 62 - 62) 62 12 20 hA1 hS1
      (by norm_num) (by norm_num)
  · rw [hT1]
    exact byteSpec_mid 62 A1 v1 S1 (8 * 62 - 62 - 62) 62 13 12 hA1 hS1
      (by norm_num) (by norm_num)
  · rw [hT1]
    exact byteSpec_mid 62 A1 v1 S1 (8 * 62 - 62 - 62) 62 14 4 hA1 hS1
      (by norm_num) (by norm_num)
  · rw [hU1]
    exact byteSpec_bnd 62 B1 v1 v2 R1 (8 * 62 - 62 - 62 - 62) 15 4 4 58 15 15 62 hB1 hv1 hv2 hR1
      (by norm_num) (by norm_num) (by norm_num) (by norm_num) (by norm_num)
  · rw [hT2]
    exact byteSpec_mid 62 A2 v2 S2 (8 * 62 - 124 - 62) 62 16 50 hA2 hS2
      (by norm_num) (by norm_num)
  · rw [hT2]
    exact byteSpec_mid 62 A2 v2 S2 (8 * 62 - 124 - 62) 62 17 42 hA2 hS2
      (by norm_num) (by norm_num)
  · rw [hT2]
    exact byteSpec_mid 62 A2 v2 S2 (8 * 62 - 124 - 62) 62 18 34 hA2 hS2
      (by norm_num) (by norm_num)
  · rw [hT2]
    exact byteSpec_mid 62 A2 v2 S2 (8 * 62 - 124 - 62) 62 19 26 hA2 hS2
      (by norm_num) (by norm_num)
  · rw [hT2]
    exact byteSpec_mid 62 A2 v2 S2 (8 * 62 - 124 - 62) 62 20 18 hA2 hS2
      (by norm_num) (by norm_num)
  · rw [hT2]
    exact byteSpec_mid 62 A2 v2 S2 (8 * 62 - 124 - 62) 62 21 10 hA2 hS2
      (by norm_num) (by norm_num)
  · rw [hT2]
    exact byteSpec_mid 62 A2 v2 S2 (8 * 62 - 124 - 62) 62 22 2 hA2 hS2
      (by norm_num) (by norm_num)
  · rw [hU2]
    exact byteSpec_bnd 62 B2 v2 v3 R2 (8 * 62 - 124 - 62 - 62) 23 2 6 56 3 63 62 hB2 hv2 hv3 hR2
      (by norm_num) (by norm_num) (by norm_num) (by norm_num) (by norm_num)
  · rw [hT3]
    exact byteSpec_mid 62 A3 v3 S3 (8 * 62 - 186 - 62) 62 24 48 hA3 hS3
      (by norm_num) (by norm_num)
  · rw [hT3]
    exact byteSpec_mid 62 A3 v3 S3 (8 * 62 - 186 - 62) 62 25 40 hA3 hS3
      (by norm_num) (by norm_num)
  · rw [hT3]
    exact byteSpec_mid 62 A3 v3 S3 (8 * 62 - 186 - 62) 62 26 32 hA3 hS3
      (by norm_num) (by norm_num)
  · rw [hT3]
    exact byteSpec_mid 62 A3 v3 S3 (8 * 62 - 186 - 62) 62 27 24 hA3 hS3
      (by norm_num) (by norm_num)
  · rw [hT3]
    exact byteSpec_mid 62 A3 v3 S3 (8 * 62 - 186 - 62) 62 28 16 hA3 hS3
      (by norm_num) (by norm_num)
  · rw [hT3]
    exact byteSpec_mid 62 A3 v3 S3 (8 * 62 - 186 - 62) 62 29 8 hA3 hS3
      (by norm_num) (by norm_num)
  · rw [hT3]
    exact byteSpec_mid0 62 A3 v3 S3 (8 * 62 - 186 - 62) 62 30 hA3 hS3
      (by norm_num) (by norm_num)
  · rw [hT4]
    exact byteSpec_mid 62 A4 v4 S4 (8 * 62 - 248 - 62) 62 31 54 hA4 hS4
      (by norm_num) (by norm_num)
  · rw [hT4]
    exact byteSpec_mid 62 A4 v4 S4 (8 * 62 - 248 - 62) 62 32 46 hA4 hS4
      (by norm_num) (by norm_num)
  · rw [hT4]
    exact byteSpec_mid 62 A4 v4 S4 (8 * 62 - 248 - 62) 62 33 38 hA4 hS4
      (by norm_num) (by norm_num)
  · rw [hT4]
    exact byteSpec_mid 62 A4 v4 S4 (8 * 62 - 248 - 62) 62 34 30 hA4 hS4
      (by norm_num) (by norm_num)
  · rw [hT4]
    exact byteSpec_mid 62 A4 v4 S4 (8 * 62 - 248 - 62) 62 35 22 hA4 hS4
      (by norm_num) (by norm_num)
  · rw [hT4]
    exact byteSpec_mid 62 A4 v4 S4 (8 * 62 - 248 - 62) 62 36 14 hA4 hS4
      (by norm_num) (by norm_num)
  · rw [hT4]
    exact byteSpec_mid 62 A4 v4 S4 (8 * 62 - 248 - 62) 62 37 6 hA4 hS4
      (by norm_num) (by norm_num)
  · rw [hU4]
    exact byteSpec_bnd 62 B4 v4 v5 R4 (8 * 62 - 248 - 62 - 62) 38 6 2 60 63 3 62 hB4 hv4 hv5 hR4
      (by norm_num) (by norm_num) (by norm_num) (by norm_num) (by norm_num)
  · rw [hT5]
    exact byteSpec_mid 62 A5 v5 S5 (8 * 62 - 310 - 62) 62 39 52 hA5 hS5
      (by norm_num) (by norm_num)
  · rw [hT5]
    exact byteSpec_mid 62 A5 v5 S5 (8 * 62 - 310 - 62) 62 40 44 hA5 hS5
      (by norm_num) (by norm_num)
  · rw [hT5]
    exact byteSpec_mid 62 A5 v5 S5 (8 * 62 - 310 - 62) 62 41 36 hA5 hS5
      (by norm_num) (by norm_num)
  · rw [hT5]
    exact byteSpec_mid 62 A5 v5 S5 (8 * 62 - 310 - 62) 62 42 28 hA5 hS5
      (by norm_num) (by norm_num)
  · rw [hT5]
    exact byteSpec_mid 62 A5 v5 S5 (8 * 62 - 310 - 62) 62 43 20 hA5 hS5
      (by norm_num) (by norm_num)
  · rw [hT5]
    exact byteSpec_mid 62 A5 v5 S5 (8 * 62 - 310 - 62) 62 44 12 hA5 hS5
      (by norm_num) (by norm_num)
  · rw [hT5]
    exact byteSpec_mid 62 A5 v5 S5 (8 * 62 - 310 - 62) 62 45 4 hA5 hS5
      (by norm_num) (by norm_num)
  · rw [hU5]
    exact byteSpec_bnd 62 B5 v5 v6 R5 (8 * 62 - 310 - 62 - 62) 46 4 4 58 15 15 62 hB5 hv5 hv6 hR5
      (by norm_num) (by norm_num) (by norm_num) (by norm_num) (by norm_num)
  · rw [hT6]
    exact byteSpec_mid 62 A6 v6 S6 (8 * 62 - 372 - 62) 62 47 50 hA6 hS6
      (by norm_num) (by norm_num)
  · rw [hT6]
    exact byteSpec_mid 62 A6 v6 S6 (8 * 62 - 372 - 62) 62 48 42 hA6 hS6
      (by norm_num) (by norm_num)
  · rw [hT6]
    exact byteSpec_mid 62 A6 v6 S6 (8 * 62 - 372 - 62) 62 49 34 hA6 hS6
      (by norm_num) (by norm_num)
  · rw [hT6]
    exact byteSpec_mid 62 A6 v6 S6 (8 * 62 - 372 - 62) 62 50 26 hA6 hS6
      (by norm_num) (by norm_num)
  · rw [hT6]
    exact byteSpec_mid 62 A6 v6 S6 (8 * 62 - 372 - 62) 62 51 18 hA6 hS6
      (by norm_num) (by norm_num)
  · rw [hT6]
    exact byteSpec_mid 62 A6 v6 S6 (8 * 62 - 372 - 62) 62 52 10 hA6 hS6
      (by norm_num) (by norm_num)
  · rw [hT6]
    exact byteSpec_mid 62 A6 v6 S6 (8 * 62 - 372 - 62) 62 53 2 hA6 hS6
      (by norm_num) (by norm_num)
  · rw [hU6]
    exact byteSpec_bnd 62 B6 v6 v7 R6 (8 * 62 - 372 - 62 - 62) 54 2 6 56 3 63 62 hB6 hv6 hv7 hR6
      (by norm_num) (by norm_num) (by norm_num) (by norm_num) (by norm_num)
  · rw [hT7]
    exact byteSpec_mid 62 A7 v7 S7 (8 * 62 - 434 - 62) 62 55 48 hA7 hS7
      (by norm_num) (by norm_num)
  · rw [hT7]
    exact byteSpec_mid 62 A7 v7 S7 (8 * 62 - 434 - 62) 62 56 40 hA7 hS7
      (by norm_num) (by norm_num)
  · rw [hT7]
    exact byteSpec_mid 62 A7 v7 S7 (8 * 62 - 434 - 62) 62 57 32 hA7 hS7
      (by norm_num) (by norm_num)
  · rw [hT7]
    exact byteSpec_mid 62 A7 v7 S7 (8 * 62 - 434 - 62) 62 58 24 hA7 hS7
      (by norm_num) (by norm_num)
  · rw [hT7]
    exact byteSpec_mid 62 A7 v7 S7 (8 * 62 - 434 - 62) 62 59 16 hA7 hS7
      (by norm_num) (by norm_num)
  · rw [hT7]
    exact byteSpec_mid 62 A7 v7 S7 (8 * 62 - 434 - 62) 62 60 8 hA7 hS7
      (by norm_num) (by norm_num)
  · rw [hT7]
    exact byteSpec_mid0 62 A7 v7 S7 (8 * 62 - 434 - 62) 62 61 hA7 hS7
      (by norm_num) (by norm_num)

set_option maxRecDepth 16000 in
set_option maxHeartbeats 1000000 in
theorem c5_pack_eq_63 (v0 v1 v2 v3 v4 v5 v6 v7 : Nat) (hv0 : v0 < 2 ^ 63) (hv1 : v1 < 2 ^ 63) (hv2 : v2 < 2 ^ 63) (hv3 : v3 < 2 ^ 63) (hv4 : v4 < 2 ^ 63) (hv5 : v5 < 2 ^ 63) (hv6 : v6 < 2 ^ 63) (hv7 : v7 < 2 ^ 63) :
    (packSeq (BitPacker.new (List.replicate 63 0)) [(v0, 63), (v1, 63), (v2, 63), (v3, 63), (v4, 63), (v5, 63), (v6, 63), (v7, 63)]).bytes
      = pack_bits_63 v0 v1 v2 v3 v4 v5 v6 v7 := by
  have hvs : ∀ p ∈ ([(v0, 63), (v1, 63), (v2, 63), (v3, 63), (v4, 63), (v5, 63), (v6, 63), (v7, 63)] : List (Nat × Nat)), p.1 < 2 ^ p.2 := by
    intro p hp
    simp only [List.mem_cons, List.not_mem_nil, or_false] at hp
    rcases hp with rfl | rfl | rfl | rfl | rfl | rfl | rfl | rfl
    exacts [hv0, hv1, hv2, hv3, hv4, hv5, hv6, hv7]
  obtain ⟨-, -, -, ⟨hlen, hbytes⟩, -, -⟩ :=
    packSeq_inv 63 [(v0, 63), (v1, 63), (v2, 63), (v3, 63), (v4, 63), (v5, 63), (v6, 63), (v7, 63)] 0 0 _ hvs
      (by norm_num [List.map_cons, List.map_nil, List.sum_cons, List.sum_nil]) (packInv_init 63)
  have key : (packSeq (BitPacker.new (List.replicate 63 0)) [(v0, 63), (v1, 63), (v2, 63), (v3, 63), (v4, 63), (v5, 63), (v6, 63), (v7, 63)]).bytes
      = [ ByteSpec 63 (streamT 63 [(v0, 63), (v1, 63), (v2, 63), (v3, 63), (v4, 63), (v5, 63), (v6, 63), (v7, 63)] 0 0) 0,
          ByteSpec 63 (streamT 63 [(v0, 63), (v1, 63), (v2, 63), (v3, 63), (v4, 63), (v5, 63), (v6, 63), (v7, 63)] 0 0) 1,
          ByteSpec 63 (streamT 63 [(v0, 63), (v1, 63), (v2, 63), (v3, 63), (v4, 63), (v5, 63), (v6, 63), (v7, 63)] 0 0) 2,
          ByteSpec 63 (streamT 63 [(v0, 63), (v1, 63), (v2, 63), (v3, 63), (v4, 63), (v5, 63), (v6, 63), (v7, 63)] 0 0) 3,
          ByteSpec 63 (streamT 63 [(v0, 63), (v1, 63), (v2, 63), (v3, 63), (v4, 63), (v5, 63), (v6, 63), (v7, 63)] 0 0) 4,
          ByteSpec 63 (streamT 63 [(v0, 63), (v1, 63), (v2, 63), (v3, 63), (v4, 63), (v5, 63), (v6, 63), (v7, 63)] 0 0) 5,
          ByteSpec 63 (streamT 63 [(v0, 63), (v1, 63), (v2, 63), (v3, 63), (v4, 63), (v5, 63), (v6, 63), (v7, 63)] 0 0) 6,
          ByteSpec 63 (streamT 63 [(v0, 63), (v1, 63), (v2, 63), (v3, 63), (v4, 63), (v5, 63), (v6, 63), (v7, 63)] 0 0) 7,
          ByteSpec 63 (streamT 63 [(v0, 63), (v1, 63), (v2, 63), (v3, 63), (v4, 63), (v5, 63), (v6, 63), (v7, 63)] 0 0) 8,
          ByteSpec 63 (streamT 63 [(v0, 63), (v1, 63), (v2, 63), (v3, 63), (v4, 63), (v5, 63), (v6, 63), (v7, 63)] 0 0) 9,
          ByteSpec 63 (streamT 63 [(v0, 63), (v1, 63), (v2, 63), (v3, 63), (v4, 63), (v5, 63), (v6, 63), (v7, 63)] 0 0) 10,
          ByteSpec 63 (streamT 63 [(v0, 63), (v1, 63), (v2, 63), (v3, 63), (v4, 63), (v5, 63), (v6, 63), (v7, 63)] 0 0) 11,
          ByteSpec 63 (streamT 63 [(v0, 63), (v1, 63), (v2, 63), (v3, 63), (v4, 63), (v5, 63), (v6, 63), (v7, 63)] 0 0) 12,
          ByteSpec 63 (streamT 63 [(v0, 63), (v1, 63), (v2, 63), (v3, 63), (v4, 63), (v5, 63), (v6, 63), (v7, 63)] 0 0) 13,
          ByteSpec 63 (streamT 63 [(v0, 63), (v1, 63), (v2, 63), (v3, 63), (v4, 63), (v5, 63), (v6, 63), (v7, 63)] 0 0) 14,
          ByteSpec 63 (streamT 63 [(v0, 63), (v1, 63), (v2, 63), (v3, 63), (v4, 63), (v5, 63), (v6, 63), (v7, 63)] 0 0) 15,
          ByteSpec 63 (streamT 63 [(v0, 63), (v1, 63), (v2, 63), (v3, 63), (v4, 63), (v5, 63), (v6, 63), (v7, 63)] 0 0) 16,
          ByteSpec 63 (streamT 63 [(v0, 63), (v1, 63), (v2, 63), (v3, 63), (v4, 63), (v5, 63), (v6, 63), (v7, 63)] 0 0) 17,
          ByteSpec 63 (streamT 63 [(v0, 63), (v1, 63), (v2, 63), (v3, 63), (v4, 63), (v5, 63), (v6, 63), (v7, 63)] 0 0) 18,
          ByteSpec 63 (streamT 63 [(v0, 63), (v1, 63), (v2, 63), (v3, 63), (v4, 63), (v5, 63), (v6, 63), (v7, 63)] 0 0) 19,
          ByteSpec 63 (streamT 63 [(v0, 63), (v1, 63), (v2, 63), (v3, 63), (v4, 63), (v5, 63), (v6, 63), (v7, 63)] 0 0) 20,
          ByteSpec 63 (streamT 63 [(v0, 63), (v1, 63), (v2, 63), (v3, 63), (v4, 63), (v5, 63), (v6, 63), (v7, 63)] 0 0) 21,
          ByteSpec 63 (streamT 63 [(v0, 63), (v1, 63), (v2, 63), (v3, 63), (v4, 63), (v5, 63), (v6, 63), (v7, 63)] 0 0) 22,
          ByteSpec 63 (streamT 63 [(v0, 63), (v1, 63), (v2, 63), (v3, 63), (v4, 63), (v5, 63), (v6, 63), (v7, 63)] 0 0) 23,
          ByteSpec 63 (streamT 63 [(v0, 63), (v1, 63), (v2, 63), (v3, 63), (v4, 63), (v5, 63), (v6, 63), (v7, 63)] 0 0) 24,
          ByteSpec 63 (streamT 63 [(v0, 63), (v1, 63), (v2, 63), (v3, 63), (v4, 63), (v5, 63), (v6, 63), (v7, 63)] 0 0) 25,
          ByteSpec 63 (streamT 63 [(v0, 63), (v1, 63), (v2, 63), (v3, 63), (v4, 63), (v5, 63), (v6, 63), (v7, 63)] 0 0) 26,
          ByteSpec 63 (streamT 63 [(v0, 63), (v1, 63), (v2, 63), (v3, 63), (v4, 63), (v5, 63), (v6, 63), (v7, 63)] 0 0) 27,
          ByteSpec 63 (streamT 63 [(v0, 63), (v1, 63), (v2, 63), (v3, 63), (v4, 63), (v5, 63), (v6, 63), (v7, 63)] 0 0) 28,
          ByteSpec 63 (streamT 63 [(v0, 63), (v1, 63), (v2, 63), (v3, 63), (v4, 63), (v5, 63), (v6, 63), (v7, 63)] 0 0) 29,
          ByteSpec 63 (streamT 63 [(v0, 63), (v1, 63), (v2, 63), (v3, 63), (v4, 63), (v5, 63), (v6, 63), (v7, 63)] 0 0) 30,
          ByteSpec 63 (streamT 63 [(v0, 63), (v1, 63), (v2, 63), (v3, 63), (v4, 63), (v5, 63), (v6, 63), (v7, 63)] 0 0) 31,
          ByteSpec 63 (streamT 63 [(v0, 63), (v1, 63), (v2, 63), (v3, 63), (v4, 63), (v5, 63), (v6, 63), (v7, 63)] 0 0) 32,
          ByteSpec 63 (streamT 63 [(v0, 63), (v1, 63), (v2, 63), (v3, 63), (v4, 63), (v5, 63), (v6, 63), (v7, 63)] 0 0) 33,
          ByteSpec 63 (streamT 63 [(v0, 63), (v1, 63), (v2, 63), (v3, 63), (v4, 63), (v5, 63), (v6, 63), (v7, 63)] 0 0) 34,
          ByteSpec 63 (streamT 63 [(v0, 63), (v1, 63), (v2, 63), (v3, 63), (v4, 63), (v5, 63), (v6, 63), (v7, 63)] 0 0) 35,
          ByteSpec 63 (streamT 63 [(v0, 63), (v1, 63), (v2, 63), (v3, 63), (v4, 63), (v5, 63), (v6, 63), (v7, 63)] 0 0) 36,
          ByteSpec 63 (streamT 63 [(v0, 63), (v1, 63), (v2, 63), (v3, 63), (v4, 63), (v5, 63), (v6, 63), (v7, 63)] 0 0) 37,
          ByteSpec 63 (streamT 63 [(v0, 63), (v1, 63), (v2, 63), (v3, 63), (v4, 63), (v5, 63), (v6, 63), (v7, 63)] 0 0) 38,
          ByteSpec 63 (streamT 63 [(v0, 63), (v1, 63), (v2, 63), (v3, 63), (v4, 63), (v5, 63), (v6, 63), (v7, 63)] 0 0) 39,
          ByteSpec 63 (streamT 63 [(v0, 63), (v1, 63), (v2, 63), (v3, 63), (v4, 63), (v5, 63), (v6, 63), (v7, 63)] 0 0) 40,
          ByteSpec 63 (streamT 63 [(v0, 63), (v1, 63), (v2, 63), (v3, 63), (v4, 63), (v5, 63), (v6, 63), (v7, 63)] 0 0) 41,
          ByteSpec 63 (streamT 63 [(v0, 63), (v1, 63), (v2, 63), (v3, 63), (v4, 63), (v5, 63), (v6, 63), (v7, 63)] 0 0) 42,
          ByteSpec 63 (streamT 63 [(v0, 63), (v1, 63), (v2, 63), (v3, 63), (v4, 63), (v5, 63), (v6, 63), (v7, 63)] 0 0) 43,
          ByteSpec 63 (streamT 63 [(v0, 63), (v1, 63), (v2, 63), (v3, 63), (v4, 63), (v5, 63), (v6, 63), (v7, 63)] 0 0) 44,
          ByteSpec 63 (streamT 63 [(v0, 63), (v1, 63), (v2, 63), (v3, 63), (v4, 63), (v5, 63), (v6, 63), (v7, 63)] 0 0) 45,
          ByteSpec 63 (streamT 63 [(v0, 63), (v1, 63), (v2, 63), (v3, 63), (v4, 63), (v5, 63), (v6, 63), (v7, 63)] 0 0) 46,
          ByteSpec 63 (streamT 63 [(v0, 63), (v1, 63), (v2, 63), (v3, 63), (v4, 63), (v5, 63), (v6, 63), (v7, 63)] 0 0) 47,
          ByteSpec 63 (streamT 63 [(v0, 63), (v1, 63), (v2, 63), (v3, 63), (v4, 63), (v5, 63), (v6, 63), (v7, 63)] 0 0) 48,
          ByteSpec 63 (streamT 63 [(v0, 63), (v1, 63), (v2, 63), (v3, 63), (v4, 63), (v5, 63), (v6, 63), (v7, 63)] 0 0) 49,
          ByteSpec 63 (streamT 63 [(v0, 63), (v1, 63), (v2, 63), (v3, 63), (v4, 63), (v5, 63), (v6, 63), (v7, 63)] 0 0) 50,
          ByteSpec 63 (streamT 63 [(v0, 63), (v1, 63), (v2, 63), (v3, 63), (v4, 63), (v5, 63), (v6, 63), (v7, 63)] 0 0) 51,
          ByteSpec 63 (streamT 63 [(v0, 63), (v1, 63), (v2, 63), (v3, 63), (v4, 63), (v5, 63), (v6, 63), (v7, 63)] 0 0) 52,
          ByteSpec 63 (streamT 63 [(v0, 63), (v1, 63), (v2, 63), (v3, 63), (v4, 63), (v5, 63), (v6, 63), (v7, 63)] 0 0) 53,
          ByteSpec 63 (streamT 63 [(v0, 63), (v1, 63), (v2, 63), (v3, 63), (v4, 63), (v5, 63), (v6, 63), (v7, 63)] 0 0) 54,
          ByteSpec 63 (streamT 63 [(v0, 63), (v1, 63), (v2, 63), (v3, 63), (v4, 63), (v5, 63), (v6, 63), (v7, 63)] 0 0) 55,
          ByteSpec 63 (streamT 63 [(v0, 63), (v1, 63), (v2, 63), (v3, 63), (v4, 63), (v5, 63), (v6, 63), (v7, 63)] 0 0) 56,
          ByteSpec 63 (streamT 63 [(v0, 63), (v1, 63), (v2, 63), (v3, 63), (v4, 63), (v5, 63), (v6, 63), (v7, 63)] 0 0) 57,
          ByteSpec 63 (streamT 63 [(v0, 63), (v1, 63), (v2, 63), (v3, 63), (v4, 63), (v5, 63), (v6, 63), (v7, 63)] 0 0) 58,
          ByteSpec 63 (streamT 63 [(v0, 63), (v1, 63), (v2, 63), (v3, 63), (v4, 63), (v5, 63), (v6, 63), (v7, 63)] 0 0) 59,
          ByteSpec 63 (streamT 63 [(v0, 63), (v1, 63), (v2, 63), (v3, 63), (v4, 63), (v5, 63), (v6, 63), (v7, 63)] 0 0) 60,
          ByteSpec 63 (streamT 63 [(v0, 63), (v1, 63), (v2, 63), (v3, 63), (v4, 63), (v5, 63), (v6, 63), (v7, 63)] 0 0) 61,
          ByteSpec 63 (streamT 63 [(v0, 63), (v1, 63), (v2, 63), (v3, 63), (v4, 63), (v5, 63), (v6, 63), (v7, 63)] 0 0) 62 ] :=
    (list_eq_map_range_of_getD _ _ 63 hlen hbytes).trans (by rfl)
  have key2 : pack_bits_63 v0 v1 v2 v3 v4 v5 v6 v7
      = [ u8 (((v0 >>> 55) &&& 0xff)),
          u8 (((v0 >>> 47) &&& 0xff)),
          u8 (((v0 >>> 39) &&& 0xff)),
          u8 (((v0 >>> 31) &&& 0xff)),
          u8 (((v0 >>> 23) &&& 0xff)),
          u8 (((v0 >>> 15) &&& 0xff)),
          u8 (((v0 >>> 7) &&& 0xff)),
          u8 (((((v0) &&& 0x7f) <<< 1) ||| ((v1 >>> 62) &&& 0x1))),
          u8 (((v1 >>> 54) &&& 0xff)),
          u8 (((v1 >>> 46) &&& 0xff)),
          u8 (((v1 >>> 38) &&& 0xff)),
          u8 (((v1 >>> 30) &&& 0xff)),
          u8 (((v1 >>> 22) &&& 0xff)),
          u8 (((v1 >>> 14) &&& 0xff)),
          u8 (((v1 >>> 6) &&& 0xff)),
          u8 (((((v1) &&& 0x3f) <<< 2) ||| ((v2 >>> 61) &&& 0x3))),
          u8 (((v2 >>> 53) &&& 0xff)),
          u8 (((v2 >>> 45) &&& 0xff)),
          u8 (((v2 >>> 37) &&& 0xff)),
          u8 (((v2 >>> 29) &&& 0xff)),
          u8 (((v2 >>> 21) &&& 0xff)),
          u8 (((v2 >>> 13) &&& 0xff)),
          u8 (((v2 >>> 5) &&& 0xff)),
          u8 (((((v2) &&& 0x1f) <<< 3) ||| ((v3 >>> 60) &&& 0x7))),
          u8 (((v3 >>> 52) &&& 0xff)),
          u8 (((v3 >>> 44) &&& 0xff)),
          u8 (((v3 >>> 36) &&& 0xff)),
          u8 (((v3 >>> 28) &&& 0xff)),
          u8 (((v3 >>> 20) &&& 0xff)),
          u8 (((v3 >>> 12) &&& 0xff)),
          u8 (((v3 >>> 4) &&& 0xff)),
          u8 (((((v3) &&& 0xf) <<< 4) ||| ((v4 >>> 59) &&& 0xf))),
          u8 (((v4 >>> 51) &&& 0xff)),
          u8 (((v4 >>> 43) &&& 0xff)),
          u8 (((v4 >>> 35) &&& 0xff)),
          u8 (((v4 >>> 27) &&& 0xff)),
          u8 (((v4 >>> 19) &&& 0xff)),
          u8 (((v4 >>> 11) &&& 0xff)),
          u8 (((v4 >>> 3) &&& 0xff)),
          u8 (((((v4) &&& 0x7) <<< 5) ||| ((v5 >>> 58) &&& 0x1f))),
          u8 (((v5 >>> 50) &&& 0xff)),
          u8 (((v5 >>> 42) &&& 0xff)),
          u8 (((v5 >>> 34) &&& 0xff)),
          u8 (((v5 >>> 26) &&& 0xff)),
          u8 (((v5 >>> 18) &&& 0xff)),
          u8 (((v5 >>> 10) &&& 0xff)),
          u8 (((v5 >>> 2) &&& 0xff)),
          u8 (((((v5) &&& 0x3) <<< 6) ||| ((v6 >>> 57) &&& 0x3f))),
          u8 (((v6 >>> 49) &&& 0xff)),
          u8 (((v6 >>> 41) &&& 0xff)),
          u8 (((v6 >>> 33) &&& 0xff)),
          u8 (((v6 >>> 25) &&& 0xff)),
          u8 (((v6 >>> 17) &&& 0xff)),
          u8 (((v6 >>> 9) &&& 0xff)),
          u8 (((v6 >>> 1) &&& 0xff)),
          u8 (((((v6) &&& 0x1) <<< 7) ||| ((v7 >>> 56) &&& 0x7f))),
          u8 (((v7 >>> 48) &&& 0xff)),
          u8 (((v7 >>> 40) &&& 0xff)),
          u8 (((v7 >>> 32) &&& 0xff)),
          u8 (((v7 >>> 24) &&& 0xff)),
          u8 (((v7 >>> 16) &&& 0xff)),
          u8 (((v7 >>> 8) &&& 0xff)),
          u8 (((v7) &&& 0xff)) ] := rfl
  obtain ⟨A0, S0, hT0, hA0, hS0⟩ :=
    streamT_decomp 63 [(v0, 63), (v1, 63), (v2, 63), (v3, 63), (v4, 63), (v5, 63), (v6, 63), (v7, 63)] [] [(v1, 63), (v2, 63), (v3, 63), (v4, 63), (v5, 63), (v6, 63), (v7, 63)] v0 63 0 rfl rfl hvs
      (by norm_num [List.map_cons, List.map_nil, List.sum_cons, List.sum_nil])
  obtain ⟨A1, S1, hT1, hA1, hS1⟩ :=
    streamT_decomp 63 [(v0, 63), (v1, 63), (v2, 63), (v3, 63), (v4, 63), (v5, 63), (v6, 63), (v7, 63)] [(v0, 63)] [(v2, 63), (v3, 63), (v4, 63), (v5, 63), (v6, 63), (v7, 63)] v1 63 63 rfl rfl hvs
      (by norm_num [List.map_cons, List.map_nil, List.sum_cons, List.sum_nil])
  obtain ⟨A2, S2, hT2, hA2, hS2⟩ :=
    streamT_decomp 63 [(v0, 63), (v1, 63), (v2, 63), (v3, 63), (v4, 63), (v5, 63), (v6, 63), (v7, 63)] [(v0, 63), (v1, 63)] [(v3, 63), (v4, 63), (v5, 63), (v6, 63), (v7, 63)] v2 63 126 rfl rfl hvs
      (by norm_num [List.map_cons, List.map_nil, List.sum_cons, List.sum_nil])
  obtain ⟨A3, S3, hT3, hA3, hS3⟩ :=
    streamT_decomp 63 [(v0, 63), (v1, 63), (v2, 63), (v3, 63), (v4, 63), (v5, 63), (v6, 63), (v7, 63)] [(v0, 63), (v1, 63), (v2, 63)] [(v4, 63), (v5, 63), (v6, 63), (v7, 63)] v3 63 189 rfl rfl hvs
      (by norm_num [List.map_cons, List.map_nil, List.sum_cons, List.sum_nil])
  obtain ⟨A4, S4, hT4, hA4, hS4⟩ :=
    streamT_decomp 63 [(v0, 63), (v1, 63), (v2, 63), (v3, 63), (v4, 63), (v5, 63), (v6, 63), (v7, 63)] [(v0, 63), (v1, 63), (v2, 63), (v3, 63)] [(v5, 63), (v6, 63), (v7, 63)] v4 63 252 rfl rfl hvs
      (by norm_num [List.map_cons, List.map_nil, List.sum_cons, List.sum_nil])
  obtain ⟨A5, S5, hT5, hA5, hS5⟩ :=
    streamT_decomp 63 [(v0, 63), (v1, 63), (v2, 63), (v3, 63), (v4, 63), (v5, 63), (v6, 63), (v7, 63)] [(v0, 63), (v1, 63), (v2, 63), (v3, 63), (v4, 63)] [(v6, 63), (v7, 63)] v5 63 315 rfl rfl hvs
      (by norm_num [List.map_cons, List.map_nil, List.sum_cons, List.sum_nil])
  obtain ⟨A6, S6, hT6, hA6, hS6⟩ :=
    streamT_decomp 63 [(v0, 63), (v1, 63), (v2, 63), (v3, 63), (v4, 63), (v5, 63), (v6, 63), (v7, 63)] [(v0, 63), (v1, 63), (v2, 63), (v3, 63), (v4, 63), (v5, 63)] [(v7, 63)] v6 63 378 rfl rfl hvs
      (by norm_num [List.map_cons, List.map_nil, List.sum_cons, List.sum_nil])
  obtain ⟨A7, S7, hT7, hA7, hS7⟩ :=
    streamT_decomp 63 [(v0, 63), (v1, 63), (v2, 63), (v3, 63), (v4, 63), (v5, 63), (v6, 63), (v7, 63)] [(v0, 63), (v1, 63), (v2, 63), (v3, 63), (v4, 63), (v5, 63), (v6, 63)] [] v7 63 441 rfl rfl hvs
      (by norm_num [List.map_cons, List.map_nil, List.sum_cons, List.sum_nil])
  obtain ⟨B0, R0, hU0, hB0, hR0⟩ :=
    streamT_decomp2 63 [(v0, 63), (v1, 63), (v2, 63), (v3, 63), (v4, 63), (v5, 63), (v6, 63), (v7, 63)] [] [(v2, 63), (v3, 63), (v4, 63), (v5, 63), (v6, 63), (v7, 63)] v0 v1 63 63 0 rfl rfl hvs
      (by norm_num [List.map_cons, List.map_nil, List.sum_cons, List.sum_nil])
  obtain ⟨B1, R1, hU1, hB1, hR1⟩ :=
    streamT_decomp2 63 [(v0, 63), (v1, 63), (v2, 63), (v3, 63), (v4, 63), (v5, 63), (v6, 63), (v7, 63)] [(v0, 63)] [(v3, 63), (v4, 63), (v5, 63), (v6, 63), (v7, 63)] v1 v2 63 63 63 rfl rfl hvs
      (by norm_num [List.map_cons, List.map_nil, List.sum_cons, List.sum_nil])
  obtain ⟨B2, R2, hU2, hB2, hR2⟩ :=
    streamT_decomp2 63 [(v0, 63), (v1, 63), (v2, 63), (v3, 63), (v4, 63), (v5, 63), (v6, 63), (v7, 63)] [(v0, 63), (v1, 63)] [(v4, 63), (v5, 63), (v6, 63), (v7, 63)] v2 v3 63 63 126 rfl rfl hvs
      (by norm_num [List.map_cons, List.map_nil, List.sum_cons, List.sum_nil])
  obtain ⟨B3, R3, hU3, hB3, hR3⟩ :=
    streamT_decomp2 63 [(v0, 63), (v1, 63), (v2, 63), (v3, 63), (v4, 63), (v5, 63), (v6, 63), (v7, 63)] [(v0, 63), (v1, 63), (v2, 63)] [(v5, 63), (v6, 63), (v7, 63)] v3 v4 63 63 189 rfl rfl hvs
      (by norm_num [List.map_cons, List.map_nil, List.sum_cons, List.sum_nil])
  obtain ⟨B4, R4, hU4, hB4, hR4⟩ :=
    streamT_decomp2 63 [(v0, 63), (v1, 63), (v2, 63), (v3, 63), (v4, 63), (v5, 63), (v6, 63), (v7, 63)] [(v0, 63), (v1, 63), (v2, 63), (v3, 63)] [(v6, 63), (v7, 63)] v4 v5 63 63 252 rfl rfl hvs
      (by norm_num [List.map_cons, List.map_nil, List.sum_cons, List.sum_nil])
  obtain ⟨B5, R5, hU5, hB5, hR5⟩ :=
    streamT_decomp2 63 [(v0, 63), (v1, 63), (v2, 63), (v3, 63), (v4, 63), (v5, 63), (v6, 63), (v7, 63)] [(v0, 63), (v1, 63), (v2, 63), (v3, 63), (v4, 63)] [(v7, 63)] v5 v6 63 63 315 rfl rfl hvs
      (by norm_num [List.map_cons, List.map_nil, List.sum_cons, List.sum_nil])
  obtain ⟨B6, R6, hU6, hB6, hR6⟩ :=
    streamT_decomp2 63 [(v0, 63), (v1, 63), (v2, 63), (v3, 63), (v4, 63), (v5, 63), (v6, 63), (v7, 63)] [(v0, 63), (v1, 63), (v2, 63), (v3, 63), (v4, 63), (v5, 63)] [] v6 v7 63 63 378 rfl rfl hvs
      (by norm_num [List.map_cons, List.map_nil, List.sum_cons, List.sum_nil])
  rw [key, key2]
  simp only [List.cons.injEq]
  refine ⟨?_, ?_, ?_, ?_, ?_, ?_, ?_, ?_, ?_, ?_, ?_, ?_, ?_, ?_, ?_, ?_, ?_, ?_, ?_, ?_, ?_, ?_, ?_, ?_, ?_, ?_, ?_, ?_, ?_, ?_, ?_, ?_, ?_, ?_, ?_, ?_, ?_, ?_, ?_, ?_, ?_, ?_, ?_, ?_, ?_, ?_, ?_, ?_, ?_, ?_, ?_, ?_, ?_, ?_, ?_, ?_, ?_, ?_, ?_, ?_, ?_, ?_, ?_, trivial⟩
  · rw [hT0]
    exact byteSpec_mid 63 A0 v0 S0 (8 * 63 - 0 - 63) 63 0 55 hA0 hS0
      (by norm_num) (by norm_num)
  · rw [hT0]
    exact byteSpec_mid 63 A0 v0 S0 (8 * 63 - 0 - 63) 63 1 47 hA0 hS0
      (by norm_num) (by norm_num)
  · rw [hT0]
    exact byteSpec_mid 63 A0 v0 S0 (8 * 63 - 0 - 63) 63 2 39 hA0 hS0
      (by norm_num) (by norm_num)
  · rw [hT0]
    exact byteSpec_mid 63 A0 v0 S0 (8 * 63 - 0 - 63) 63 3 31 hA0 hS0
      (by norm_num) (by norm_num)
  · rw [hT0]
    exact byteSpec_mid 63 A0 v0 S0 (8 * 63 - 0 - 63) 63 4 23 hA0 hS0
      (by norm_num) (by norm_num)
  · rw [hT0]
    exact byteSpec_mid 63 A0 v0 S0 (8 * 63 - 0 - 63) 63 5 15 hA0 hS0
      (by norm_num) (by norm_num)
  · rw [hT0]
    exact byteSpec_mid 63 A0 v0 S0 (8 * 63 - 0 - 63) 63 6 7 hA0 hS0
      (by norm_num) (by norm_num)
  · rw [hU0]
    exact byteSpec_bnd 63 B0 v0 v1 R0 (8 * 63 - 0 - 63 - 63) 7 7 1 62 127 1 63 hB0 hv0 hv1 hR0
      (by norm_num) (by norm_num) (by norm_num) (by norm_num) (by norm_num)
  · rw [hT1]
    exact byteSpec_mid 63 A1 v1 S1 (8 * 63 - 63 - 63) 63 8 54 hA1 hS1
      (by norm_num) (by norm_num)
  · rw [hT1]
    exact byteSpec_mid 63 A1 v1 S1 (8 * 63 - 63 - 63) 63 9 46 hA1 hS1
      (by norm_num) (by norm_num)
  · rw [hT1]
    exact byteSpec_mid 63 A1 v1 S1 (8 * 63 - 63 - 63) 63 10 38 hA1 hS1
      (by norm_num) (by norm_num)
  · rw [hT1]
    exact byteSpec_mid 63 A1 v1 S1 (8 * 63 - 63 - 63) 63 11 30 hA1 hS1
      (by norm_num) (by norm_num)
  · rw [hT1]
    exact byteSpec_mid 63 A1 v1 S1 (8 * 63 - 63 - 63) 63 12 22 hA1 hS1
      (by norm_num) (by norm_num)
  · rw [hT1]
    exact byteSpec_mid 63 A1 v1 S1 (8 * 63 - 63 - 63) 63 13 14 hA1 hS1
      (by norm_num) (by norm_num)
  · rw [hT1]
    exact byteSpec_mid 63 A1 v1 S1 (8 * 63 - 63 - 63) 63 14 6 hA1 hS1
      (by norm_num) (by norm_num)
  · rw [hU1]
    exact byteSpec_bnd 63 B1 v1 v2 R1 (8 * 63 - 63 - 63 - 63) 15 6 2 61 63 3 63 hB1 hv1 hv2 hR1
      (by norm_num) (by norm_num) (by norm_num) (by norm_num) (by norm_num)
  · rw [hT2]
    exact byteSpec_mid 63 A2 v2 S2 (8 * 63 - 126 - 63) 63 16 53 hA2 hS2
      (by norm_num) (by norm_num)
  · rw [hT2]
    exact byteSpec_mid 63 A2 v2 S2 (8 * 63 - 126 - 63) 63 17 45 hA2 hS2
      (by norm_num) (by norm_num)
  · rw [hT2]
    exact byteSpec_mid 63 A2 v2 S2 (8 * 63 - 126 - 63) 63 18 37 hA2 hS2
      (by norm_num) (by norm_num)
  · rw [hT2]
    exact byteSpec_mid 63 A2 v2 S2 (8 * 63 - 126 - 63) 63 19 29 hA2 hS2
      (by norm_num) (by norm_num)
  · rw [hT2]
    exact byteSpec_mid 63 A2 v2 S2 (8 * 63 - 126 - 63) 63 20 21 hA2 hS2
      (by norm_num) (by norm_num)
  · rw [hT2]
    exact byteSpec_mid 63 A2 v2 S2 (8 * 63 - 126 - 63) 63 21 13 hA2 hS2
      (by norm_num) (by norm_num)
  · rw [hT2]
    exact byteSpec_mid 63 A2 v2 S2 (8 * 63 - 126 - 63) 63 22 5 hA2 hS2
      (by norm_num) (by norm_num)
  · rw [hU2]
    exact byteSpec_bnd 63 B2 v2 v3 R2 (8 * 63 - 126 - 63 - 63) 23 5 3 60 31 7 63 hB2 hv2 hv3 hR2
      (by norm_num) (by norm_num) (by norm_num) (by norm_num) (by norm_num)
  · rw [hT3]
    exact byteSpec_mid 63 A3 v3 S3 (8 * 63 - 189 - 63) 63 24 52 hA3 hS3
      (by norm_num) (by norm_num)
  · rw [hT3]
    exact byteSpec_mid 63 A3 v3 S3 (8 * 63 - 189 - 63) 63 25 44 hA3 hS3
      (by norm_num) (by norm_num)
  · rw [hT3]
    exact byteSpec_mid 63 A3 v3 S3 (8 * 63 - 189 - 63) 63 26 36 hA3 hS3
      (by norm_num) (by norm_num)
  · rw [hT3]
    exact byteSpec_mid 63 A3 v3 S3 (8 * 63 - 189 - 63) 63 27 28 hA3 hS3
      (by norm_num) (by norm_num)
  · rw [hT3]
    exact byteSpec_mid 63 A3 v3 S3 (8 * 63 - 189 - 63) 63 28 20 hA3 hS3
      (by norm_num) (by norm_num)
  · rw [hT3]
    exact byteSpec_mid 63 A3 v3 S3 (8 * 63 - 189 - 63) 63 29 12 hA3 hS3
      (by norm_num) (by norm_num)
  · rw [hT3]
    exact byteSpec_mid 63 A3 v3 S3 (8 * 63 - 189 - 63) 63 30 4 hA3 hS3
      (by norm_num) (by norm_num)
  · rw [hU3]
    exact byteSpec_bnd 63 B3 v3 v4 R3 (8 * 63 - 189 - 63 - 63) 31 4 4 59 15 15 63 hB3 hv3 hv4 hR3
      (by norm_num) (by norm_num) (by norm_num) (by norm_num) (by norm_num)
  · rw [hT4]
    exact byteSpec_mid 63 A4 v4 S4 (8 * 63 - 252 - 63) 63 32 51 hA4 hS4
      (by norm_num) (by norm_num)
  · rw [hT4]
    exact byteSpec_mid 63 A4 v4 S4 (8 * 63 - 252 - 63) 63 33 43 hA4 hS4
      (by norm_num) (by norm_num)
  · rw [hT4]
    exact byteSpec_mid 63 A4 v4 S4 (8 * 63 - 252 - 63) 63 34 35 hA4 hS4
      (by norm_num) (by norm_num)
  · rw [hT4]
    exact byteSpec_mid 63 A4 v4 S4 (8 * 63 - 252 - 63) 63 35 27 hA4 hS4
      (by norm_num) (by norm_num)
  · rw [hT4]
    exact byteSpec_mid 63 A4 v4 S4 (8 * 63 - 252 - 63) 63 36 19 hA4 hS4
      (by norm_num) (by norm_num)
  · rw [hT4]
    exact byteSpec_mid 63 A4 v4 S4 (8 * 63 - 252 - 63) 63 37 11 hA4 hS4
      (by norm_num) (by norm_num)
  · rw [hT4]
    exact byteSpec_mid 63 A4 v4 S4 (8 * 63 - 252 - 63) 63 38 3 hA4 hS4
      (by norm_num) (by norm_num)
  · rw [hU4]
    exact byteSpec_bnd 63 B4 v4 v5 R4 (8 * 63 - 252 - 63 - 63) 39 3 5 58 7 31 63 hB4 hv4 hv5 hR4
      (by norm_num) (by norm_num) (by norm_num) (by norm_num) (by norm_num)
  · rw [hT5]
    exact byteSpec_mid 63 A5 v5 S5 (8 * 63 - 315 - 63) 63 40 50 hA5 hS5
      (by norm_num) (by norm_num)
  · rw [hT5]
    exact byteSpec_mid 63 A5 v5 S5 (8 * 63 - 315 - 63) 63 41 42 hA5 hS5
      (by norm_num) (by norm_num)
  · rw [hT5]
    exact byteSpec_mid 63 A5 v5 S5 (8 * 63 - 315 - 63) 63 42 34 hA5 hS5
      (by norm_num) (by norm_num)
  · rw [hT5]
    exact byteSpec_mid 63 A5 v5 S5 (8 * 63 - 315 - 63) 63 43 26 hA5 hS5
      (by norm_num) (by norm_num)
  · rw [hT5]
    exact byteSpec_mid 63 A5 v5 S5 (8 * 63 - 315 - 63) 63 44 18 hA5 hS5
      (by norm_num) (by norm_num)
  · rw [hT5]
    exact byteSpec_mid 63 A5 v5 S5 (8 * 63 - 315 - 63) 63 45 10 hA5 hS5
      (by norm_num) (by norm_num)
  · rw [hT5]
    exact byteSpec_mid 63 A5 v5 S5 (8 * 63 - 315 - 63) 63 46 2 hA5 hS5
      (by norm_num) (by norm_num)
  · rw [hU5]
    exact byteSpec_bnd 63 B5 v5 v6 R5 (8 * 63 - 315 - 63 - 63) 47 2 6 57 3 63 63 hB5 hv5 hv6 hR5
      (by norm_num) (by norm_num) (by norm_num) (by norm_num) (by norm_num)
  · rw [hT6]
    exact byteSpec_mid 63 A6 v6 S6 (8 * 63 - 378 - 63) 63 48 49 hA6 hS6
      (by norm_num) (by norm_num)
  · rw [hT6]
    exact byteSpec_mid 63 A6 v6 S6 (8 * 63 - 378 - 63) 63 49 41 hA6 hS6
      (by norm_num) (by norm_num)
  · rw [hT6]
    exact byteSpec_mid 63 A6 v6 S6 (8 * 63 - 378 - 63) 63 50 33 hA6 hS6
      (by norm_num) (by norm_num)
  · rw [hT6]
    exact byteSpec_mid 63 A6 v6 S6 (8 * 63 - 378 - 63) 63 51 25 hA6 hS6
      (by norm_num) (by norm_num)
  · rw [hT6]
    exact byteSpec_mid 63 A6 v6 S6 (8 * 63 - 378 - 63) 63 52 17 hA6 hS6
      (by norm_num) (by norm_num)
  · rw [hT6]
    exact byteSpec_mid 63 A6 v6 S6 (8 * 63 - 378 - 63) 63 53 9 hA6 hS6
      (by norm_num) (by norm_num)
  · rw [hT6]
    exact byteSpec_mid 63 A6 v6 S6 (8 * 63 - 378 - 63) 63 54 1 hA6 hS6
      (by norm_num) (by norm_num)
  · rw [hU6]
    exact byteSpec_bnd 63 B6 v6 v7 R6 (8 * 63 - 378 - 63 - 63) 55 1 7 56 1 127 63 hB6 hv6 hv7 hR6
      (by norm_num) (by norm_num) (by norm_num) (by norm_num) (by norm_num)
  · rw [hT7]
    exact byteSpec_mid 63 A7 v7 S7 (8 * 63 - 441 - 63) 63 56 48 hA7 hS7
      (by norm_num) (by norm_num)
  · rw [hT7]
    exact byteSpec_mid 63 A7 v7 S7 (8 * 63 - 441 - 63) 63 57 40 hA7 hS7
      (by norm_num) (by norm_num)
  · rw [hT7]
    exact byteSpec_mid 63 A7 v7 S7 (8 * 63 - 441 - 63) 63 58 32 hA7 hS7
      (by norm_num) (by norm_num)
  · rw [hT7]
    exact byteSpec_mid 63 A7 v7 S7 (8 * 63 - 441 - 63) 63 59 24 hA7 hS7
      (by norm_num) (by norm_num)
  · rw [hT7]
    exact byteSpec_mid 63 A7 v7 S7 (8 * 63 - 441 - 63) 63 60 16 hA7 hS7
      (by norm_num) (by norm_num)
  · rw [hT7]
    exact byteSpec_mid 63 A7 v7 S7 (8 * 63 - 441 - 63) 63 61 8 hA7 hS7
      (by norm_num) (by norm_num)
  · rw [hT7]
    exact byteSpec_mid0 63 A7 v7 S7 (8 * 63 - 441 - 63) 63 62 hA7 hS7
      (by norm_num) (by norm_num)


set_option maxHeartbeats 1600000 in
/-- C5: for every width `b` in `1..=63` and every 8 values below `2 ^ b`, the
byte image written by `pack_bits_block` into a zeroed `b`-byte buffer (as its
callers allocate it) equals, byte for byte, the image produced by packing the
same 8 values in order with `BitPacker::pack_value` at width `b` starting from
a zeroed `b`-byte buffer. -/
theorem c5_block_image_equals_stateful_image (bits : Nat)
    (h1 : 1 ≤ bits) (h2 : bits ≤ 63) (v0 v1 v2 v3 v4 v5 v6 v7 : Nat)
    (hv0 : v0 < 2 ^ bits) (hv1 : v1 < 2 ^ bits) (hv2 : v2 < 2 ^ bits)
    (hv3 : v3 < 2 ^ bits) (hv4 : v4 < 2 ^ bits) (hv5 : v5 < 2 ^ bits)
    (hv6 : v6 < 2 ^ bits) (hv7 : v7 < 2 ^ bits) :
    pack_bits_block [v0, v1, v2, v3, v4, v5, v6, v7] (List.replicate bits 0) bits
      = some ((packSeq (BitPacker.new (List.replicate bits 0))
          [(v0, bits), (v1, bits), (v2, bits), (v3, bits), (v4, bits),
            (v5, bits), (v6, bits), (v7, bits)]).bytes) := by
  interval_cases bits
  · exact congrArg some (c5_pack_eq_1 v0 v1 v2 v3 v4 v5 v6 v7
      hv0 hv1 hv2 hv3 hv4 hv5 hv6 hv7).symm
  · exact congrArg some (c5_pack_eq_2 v0 v1 v2 v3 v4 v5 v6 v7
      hv0 hv1 hv2 hv3 hv4 hv5 hv6 hv7).symm
  · exact congrArg some (c5_pack_eq_3 v0 v1 v2 v3 v4 v5 v6 v7
      hv0 hv1 hv2 hv3 hv4 hv5 hv6 hv7).symm
  · exact congrArg some (c5_pack_eq_4 v0 v1 v2 v3 v4 v5 v6 v7
      hv0 hv1 hv2 hv3 hv4 hv5 hv6 hv7).symm
  · exact congrArg some (c5_pack_eq_5 v0 v1 v2 v3 v4 v5 v6 v7
      hv0 hv1 hv2 hv3 hv4 hv5 hv6 hv7).symm
  · exact congrArg some (c5_pack_eq_6 v0 v1 v2 v3 v4 v5 v6 v7
      hv0 hv1 hv2 hv3 hv4 hv5 hv6 hv7).symm
  · exact congrArg some (c5_pack_eq_7 v0 v1 v2 v3 v4 v5 v6 v7
      hv0 hv1 hv2 hv3 hv4 hv5 hv6 hv7).symm
  · exact congrArg some (c5_pack_eq_8 v0 v1 v2 v3 v4 v5 v6 v7
      hv0 hv1 hv2 hv3 hv4 hv5 hv6 hv7).symm
  · exact congrArg some (c5_pack_eq_9 v0 v1 v2 v3 v4 v5 v6 v7
      hv0 hv1 hv2 hv3 hv4 hv5 hv6 hv7).symm
  · exact congrArg some (c5_pack_eq_10 v0 v1 v2 v3 v4 v5 v6 v7
      hv0 hv1 hv2 hv3 hv4 hv5 hv6 hv7).symm
  · exact congrArg some (c5_pack_eq_11 v0 v1 v2 v3 v4 v5 v6 v7
      hv0 hv1 hv2 hv3 hv4 hv5 hv6 hv7).symm
  · exact congrArg some (c5_pack_eq_12 v0 v1 v2 v3 v4 v5 v6 v7
      hv0 hv1 hv2 hv3 hv4 hv5 hv6 hv7).symm
  · exact congrArg some (c5_pack_eq_13 v0 v1 v2 v3 v4 v5 v6 v7
      hv0 hv1 hv2 hv3 hv4 hv5 hv6 hv7).symm
  · exact congrArg some (c5_pack_eq_14 v0 v1 v2 v3 v4 v5 v6 v7
      hv0 hv1 hv2 hv3 hv4 hv5 hv6 hv7).symm
  · exact congrArg some (c5_pack_eq_15 v0 v1 v2 v3 v4 v5 v6 v7
      hv0 hv1 hv2 hv3 hv4 hv5 hv6 hv7).symm
  · exact congrArg some (c5_pack_eq_16 v0 v1 v2 v3 v4 v5 v6 v7
      hv0 hv1 hv2 hv3 hv4 hv5 hv6 hv7).symm
  · exact congrArg some (c5_pack_eq_17 v0 v1 v2 v3 v4 v5 v6 v7
      hv0 hv1 hv2 hv3 hv4 hv5 hv6 hv7).symm
  · exact congrArg some (c5_pack_eq_18 v0 v1 v2 v3 v4 v5 v6 v7
      hv0 hv1 hv2 hv3 hv4 hv5 hv6 hv7).symm
  · exact congrArg some (c5_pack_eq_19 v0 v1 v2 v3 v4 v5 v6 v7
      hv0 hv1 hv2 hv3 hv4 hv5 hv6 hv7).symm
  · exact congrArg some (c5_pack_eq_20 v0 v1 v2 v3 v4 v5 v6 v7
      hv0 hv1 hv2 hv3 hv4 hv5 hv6 hv7).symm
  · exact congrArg some (c5_pack_eq_21 v0 v1 v2 v3 v4 v5 v6 v7
      hv0 hv1 hv2 hv3 hv4 hv5 hv6 hv7).symm
  · exact congrArg some (c5_pack_eq_22 v0 v1 v2 v3 v4 v5 v6 v7
      hv0 hv1 hv2 hv3 hv4 hv5 hv6 hv7).symm
  · exact congrArg some (c5_pack_eq_23 v0 v1 v2 v3 v4 v5 v6 v7
      hv0 hv1 hv2 hv3 hv4 hv5 hv6 hv7).symm
  · exact congrArg some (c5_pack_eq_24 v0 v1 v2 v3 v4 v5 v6 v7
      hv0 hv1 hv2 hv3 hv4 hv5 hv6 hv7).symm
  · exact congrArg some (c5_pack_eq_25 v0 v1 v2 v3 v4 v5 v6 v7
      hv0 hv1 hv2 hv3 hv4 hv5 hv6 hv7).symm
  · exact congrArg some (c5_pack_eq_26 v0 v1 v2 v3 v4 v5 v6 v7
      hv0 hv1 hv2 hv3 hv4 hv5 hv6 hv7).symm
  · exact congrArg some (c5_pack_eq_27 v0 v1 v2 v3 v4 v5 v6 v7
      hv0 hv1 hv2 hv3 hv4 hv5 hv6 hv7).symm
  · exact congrArg some (c5_pack_eq_28 v0 v1 v2 v3 v4 v5 v6 v7
      hv0 hv1 hv2 hv3 hv4 hv5 hv6 hv7).symm
  · exact congrArg some (c5_pack_eq_29 v0 v1 v2 v3 v4 v5 v6 v7
      hv0 hv1 hv2 hv3 hv4 hv5 hv6 hv7).symm
  · exact congrArg some (c5_pack_eq_30 v0 v1 v2 v3 v4 v5 v6 v7
      hv0 hv1 hv2 hv3 hv4 hv5 hv6 hv7).symm
  · exact congrArg some (c5_pack_eq_31 v0 v1 v2 v3 v4 v5 v6 v7
      hv0 hv1 hv2 hv3 hv4 hv5 hv6 hv7).symm
  · exact congrArg some (c5_pack_eq_32 v0 v1 v2 v3 v4 v5 v6 v7
      hv0 hv1 hv2 hv3 hv4 hv5 hv6 hv7).symm
  · exact congrArg some (c5_pack_eq_33 v0 v1 v2 v3 v4 v5 v6 v7
      hv0 hv1 hv2 hv3 hv4 hv5 hv6 hv7).symm
  · exact congrArg some (c5_pack_eq_34 v0 v1 v2 v3 v4 v5 v6 v7
      hv0 hv1 hv2 hv3 hv4 hv5 hv6 hv7).symm
  · exact congrArg some (c5_pack_eq_35 v0 v1 v2 v3 v4 v5 v6 v7
      hv0 hv1 hv2 hv3 hv4 hv5 hv6 hv7).symm
  · exact congrArg some (c5_pack_eq_36 v0 v1 v2 v3 v4 v5 v6 v7
      hv0 hv1 hv2 hv3 hv4 hv5 hv6 hv7).symm
  · exact congrArg some (c5_pack_eq_37 v0 v1 v2 v3 v4 v5 v6 v7
      hv0 hv1 hv2 hv3 hv4 hv5 hv6 hv7).symm
  · exact congrArg some (c5_pack_eq_38 v0 v1 v2 v3 v4 v5 v6 v7
      hv0 hv1 hv2 hv3 hv4 hv5 hv6 hv7).symm
  · exact congrArg some (c5_pack_eq_39 v0 v1 v2 v3 v4 v5 v6 v7
      hv0 hv1 hv2 hv3 hv4 hv5 hv6 hv7).symm
  · exact congrArg some (c5_pack_eq_40 v0 v1 v2 v3 v4 v5 v6 v7
      hv0 hv1 hv2 hv3 hv4 hv5 hv6 hv7).symm
  · exact congrArg some (c5_pack_eq_41 v0 v1 v2 v3 v4 v5 v6 v7
      hv0 hv1 hv2 hv3 hv4 hv5 hv6 hv7).symm
  · exact congrArg some (c5_pack_eq_42 v0 v1 v2 v3 v4 v5 v6 v7
      hv0 hv1 hv2 hv3 hv4 hv5 hv6 hv7).symm
  · exact congrArg some (c5_pack_eq_43 v0 v1 v2 v3 v4 v5 v6 v7
      hv0 hv1 hv2 hv3 hv4 hv5 hv6 hv7).symm
  · exact congrArg some (c5_pack_eq_44 v0 v1 v2 v3 v4 v5 v6 v7
      hv0 hv1 hv2 hv3 hv4 hv5 hv6 hv7).symm
  · exact congrArg some (c5_pack_eq_45 v0 v1 v2 v3 v4 v5 v6 v7
      hv0 hv1 hv2 hv3 hv4 hv5 hv6 hv7).symm
  · exact congrArg some (c5_pack_eq_46 v0 v1 v2 v3 v4 v5 v6 v7
      hv0 hv1 hv2 hv3 hv4 hv5 hv6 hv7).symm
  · exact congrArg some (c5_pack_eq_47 v0 v1 v2 v3 v4 v5 v6 v7
      hv0 hv1 hv2 hv3 hv4 hv5 hv6 hv7).symm
  · exact congrArg some (c5_pack_eq_48 v0 v1 v2 v3 v4 v5 v6 v7
      hv0 hv1 hv2 hv3 hv4 hv5 hv6 hv7).symm
  · exact congrArg some (c5_pack_eq_49 v0 v1 v2 v3 v4 v5 v6 v7
      hv0 hv1 hv2 hv3 hv4 hv5 hv6 hv7).symm
  · exact congrArg some (c5_pack_eq_50 v0 v1 v2 v3 v4 v5 v6 v7
      hv0 hv1 hv2 hv3 hv4 hv5 hv6 hv7).symm
  · exact congrArg some (c5_pack_eq_51 v0 v1 v2 v3 v4 v5 v6 v7
      hv0 hv1 hv2 hv3 hv4 hv5 hv6 hv7).symm
  · exact congrArg some (c5_pack_eq_52 v0 v1 v2 v3 v4 v5 v6 v7
      hv0 hv1 hv2 hv3 hv4 hv5 hv6 hv7).symm
  · exact congrArg some (c5_pack_eq_53 v0 v1 v2 v3 v4 v5 v6 v7
      hv0 hv1 hv2 hv3 hv4 hv5 hv6 hv7).symm
  · exact congrArg some (c5_pack_eq_54 v0 v1 v2 v3 v4 v5 v6 v7
      hv0 hv1 hv2 hv3 hv4 hv5 hv6 hv7).symm
  · exact congrArg some (c5_pack_eq_55 v0 v1 v2 v3 v4 v5 v6 v7
      hv0 hv1 hv2 hv3 hv4 hv5 hv6 hv7).symm
  · exact congrArg some (c5_pack_eq_56 v0 v1 v2 v3 v4 v5 v6 v7
      hv0 hv1 hv2 hv3 hv4 hv5 hv6 hv7).symm
  · exact congrArg some (c5_pack_eq_57 v0 v1 v2 v3 v4 v5 v6 v7
      hv0 hv1 hv2 hv3 hv4 hv5 hv6 hv7).symm
  · exact congrArg some (c5_pack_eq_58 v0 v1 v2 v3 v4 v5 v6 v7
      hv0 hv1 hv2 hv3 hv4 hv5 hv6 hv7).symm
  · exact congrArg some (c5_pack_eq_59 v0 v1 v2 v3 v4 v5 v6 v7
      hv0 hv1 hv2 hv3 hv4 hv5 hv6 hv7).symm
  · exact congrArg some (c5_pack_eq_60 v0 v1 v2 v3 v4 v5 v6 v7
      hv0 hv1 hv2 hv3 hv4 hv5 hv6 hv7).symm
  · exact congrArg some (c5_pack_eq_61 v0 v1 v2 v3 v4 v5 v6 v7
      hv0 hv1 hv2 hv3 hv4 hv5 hv6 hv7).symm
  · exact congrArg some (c5_pack_eq_62 v0 v1 v2 v3 v4 v5 v6 v7
      hv0 hv1 hv2 hv3 hv4 hv5 hv6 hv7).symm
  · exact congrArg some (c5_pack_eq_63 v0 v1 v2 v3 v4 v5 v6 v7
      hv0 hv1 hv2 hv3 hv4 hv5 hv6 hv7).symm

/-- Witness for C5 at `bits = 3`, values `[5, 1, 7, 0, 2, 3, 4, 6]`. -/
theorem c5_block_image_equals_stateful_image_witness :
    pack_bits_block [5, 1, 7, 0, 2, 3, 4, 6] (List.replicate 3 0) 3
      = some ((packSeq (BitPacker.new (List.replicate 3 0))
          [(5, 3), (1, 3), (7, 3), (0, 3), (2, 3), (3, 3), (4, 3), (6, 3)]).bytes) :=
  c5_block_image_equals_stateful_image 3 (by decide) (by decide) 5 1 7 0 2 3 4 6
    (by decide) (by decide) (by decide) (by decide) (by decide) (by decide)
    (by decide) (by decide)

